import Mathlib

/-!
# go-minus IR generator: a shallow embedding

This development embeds `internal/irgen/irgen.go` (the AST to LLVM-IR lowering
of the go-minus compiler) as executable Lean definitions and proves
properties of the lowering.

Conventions of the embedding.

* The generator `*IRGenerator` is mutated in place by the Go code; here every
  lowering function takes the generator state and returns the updated state.
* Go pointers to blocks and functions (`*ir.Block`, `*ir.Func`) are addresses
  in the object stores `IRGenerator.blocks` and `IRGenerator.funcs` (maps
  from addresses to objects, with the next free address in `nblocks` and
  `nfuncs`); a nullable pointer is an `Option Nat`.  Addresses are never
  reused, so an address is a stable object identity, as a Go pointer is.
* Instruction results are referred to by a fresh number (`nextId`), which
  plays the role of the identity of the Go instruction object.
* A Go run-time panic raised by the generator's own code (a method called on
  a nil block or function, a failed type assertion) is `Except.error`.
* The constructors of the `llir/llvm` library (`NewAdd`, `NewLoad`, ...) are
  data constructors; the result type of each instruction follows the LLVM
  typing rule that the library implements, and the constructors that check
  their operands (`NewStore`, `NewICmp`, `NewFCmp`, `NewGetElementPtr`,
  `NewCall`) and the printer `module.String()` panic where the library
  does.
* The lowering functions for classes, templates, exceptions, `new` and
  stand-alone member access live in other files of the Go package; their
  node kinds carry the lowering as a parameter (`ExternalExpression`,
  `ExternalStatement`).
-/

namespace Irgen

/-! ## Target types (`llir/llvm/ir/types`) -/

mutual
/-- LLVM types used by the generator. -/
inductive Ty where
  | I1 | I8 | I16 | I32 | I64
  | Float | Double
  | Void
  | Pointer (elem : Ty)
  | Array (len : Nat) (elem : Ty)
  | Struct (fields : TyList)
  | Func (ret : Ty) (params : TyList) (variadic : Bool)
  deriving DecidableEq, Repr
/-- Lists of types: struct fields and function parameters. -/
inductive TyList where
  | nil
  | cons (head : Ty) (tail : TyList)
  deriving DecidableEq, Repr
end

instance : Inhabited Ty := ⟨Ty.Void⟩

/-- Number of entries of a type list (`len(structType.Fields)`). -/
def TyList.length : TyList → Nat
  | .nil => 0
  | .cons _ t => t.length + 1

/-- Entry `i` of a type list (`structType.Fields[i]`). -/
def TyList.get? : TyList → Nat → Option Ty
  | .nil, _ => none
  | .cons h _, 0 => some h
  | .cons _ t, i + 1 => t.get? i

/-- Build a type list from a Lean list. -/
def TyList.ofList : List Ty → TyList
  | [] => .nil
  | t :: ts => .cons t (TyList.ofList ts)

/-- The llir predicate `types.IsInt`. -/
def Ty.IsInt : Ty → Bool
  | .I1 | .I8 | .I16 | .I32 | .I64 => true
  | _ => false

/-- The llir predicate `types.IsFloat`. -/
def Ty.IsFloat : Ty → Bool
  | .Float | .Double => true
  | _ => false

/-- The llir predicate `types.IsPointer`. -/
def Ty.IsPointer : Ty → Bool
  | .Pointer _ => true
  | _ => false

/-- Bit width of an integer type (0 for every other type). -/
def Ty.bits : Ty → Nat
  | .I1 => 1 | .I8 => 8 | .I16 => 16 | .I32 => 32 | .I64 => 64
  | _ => 0

/-- The slice aggregate type `{data *T, len i32, cap i32}` built by
`generateMakeCall` with `types.NewStruct`. -/
def sliceStruct (elementType : Ty) : Ty :=
  .Struct (.cons (.Pointer elementType) (.cons .I32 (.cons .I32 .nil)))

/-- Go name of the type of a type object, as `%T` prints it. -/
def Ty.goType : Ty → String
  | .I1 | .I8 | .I16 | .I32 | .I64 => "*types.IntType"
  | .Float | .Double => "*types.FloatType"
  | .Void => "*types.VoidType"
  | .Pointer _ => "*types.PointerType"
  | .Array _ _ => "*types.ArrayType"
  | .Struct _ => "*types.StructType"
  | .Func _ _ _ => "*types.FuncType"

mutual
/-- LLVM syntax of a type (`Type.String()`). -/
def Ty.String : Ty → String
  | .I1 => "i1" | .I8 => "i8" | .I16 => "i16" | .I32 => "i32" | .I64 => "i64"
  | .Float => "float" | .Double => "double" | .Void => "void"
  | .Pointer e => e.String ++ "*"
  | .Array n e => "[" ++ toString n ++ " x " ++ e.String ++ "]"
  | .Struct fs => "\x7b " ++ fs.String ++ " \x7d"
  | .Func r ps v => r.String ++ " (" ++ ps.String ++ (if v then ", ...)" else ")")
/-- Comma-separated LLVM syntax of a type list. -/
def TyList.String : TyList → String
  | .nil => ""
  | .cons h .nil => h.String
  | .cons h t => h.String ++ ", " ++ t.String
end

/-! ## Values, instructions, blocks, functions (`llir/llvm/ir`) -/

/-- Values: constants and references to objects that carry a value.  A float
constant carries the IEEE-754 bit pattern of its `float64`; floating-point
arithmetic is not interpreted. -/
inductive Value where
  /-- The constant `constant.NewInt(typ, x)`. -/
  | ConstInt (typ : Ty) (x : Int)
  /-- The constant `constant.NewFloat(typ, x)`. -/
  | ConstFloat (typ : Ty) (bits : Nat)
  /-- The constant `constant.NewNull(typ)`. -/
  | ConstNull (typ : Ty)
  /-- The constant `constant.NewZeroInitializer(typ)`. -/
  | ConstZeroInit (typ : Ty)
  /-- The constant `constant.NewCharArrayFromString(s)`. -/
  | ConstCharArray (s : String)
  /-- The constant expression
  `constant.NewGetElementPtr(elemType, global, i32 0, i32 0)`. -/
  | ConstGEP00 (elemType : Ty) (global : Nat)
  /-- The result of the instruction with identity `id`. -/
  | Inst (id : Nat) (typ : Ty)
  /-- Parameter `idx` of function `fn`. -/
  | Param (fn : Nat) (idx : Nat) (typ : Ty)
  /-- The module global with identity `id`. -/
  | Global (id : Nat) (contentType : Ty)
  /-- The function with identity `id` and signature `sig`. -/
  | Func (id : Nat) (sig : Ty)
  /-- The nil interface value (`generateExitCall` can pass it on). -/
  | Nil
  deriving DecidableEq, Repr

instance : Inhabited Value := ⟨Value.Nil⟩

/-- The method `Type()` of a value. -/
def Value.Type : Value → Ty
  | .ConstInt t _ => t
  | .ConstFloat t _ => t
  | .ConstNull t => t
  | .ConstZeroInit t => t
  | .ConstCharArray s => .Array s.utf8ByteSize .I8
  | .ConstGEP00 elemType _ =>
    match elemType with
    | .Array _ e => .Pointer e
    | _ => .Pointer elemType
  | .Inst _ t => t
  | .Param _ _ t => t
  | .Global _ ct => .Pointer ct
  | .Func _ sig => .Pointer sig
  | .Nil => .Void

/-- Binary instructions. -/
inductive BinOp where
  | Add | Sub | Mul | SDiv | FAdd | FSub | FMul | FDiv | Xor | Or
  deriving DecidableEq, Repr

/-- Integer comparison predicates (`enum.IPred`). -/
inductive IPred where
  | EQ | NE | SLT | SGT | SLE | SGE
  deriving DecidableEq, Repr

/-- Floating-point comparison predicates (`enum.FPred`). -/
inductive FPred where
  | OEQ | ONE | OLT | OGT | OLE | OGE
  deriving DecidableEq, Repr

/-- Non-terminator instructions.  `id` is the identity of the result. -/
inductive Inst where
  | Alloca (id : Nat) (elemType : Ty) (name : String)
  | Load (id : Nat) (elemType : Ty) (src : Value)
  | Store (src dst : Value)
  | Bin (id : Nat) (op : BinOp) (x y : Value)
  | ICmp (id : Nat) (pred : IPred) (x y : Value)
  | FCmp (id : Nat) (pred : FPred) (x y : Value)
  | GetElementPtr (id : Nat) (elemType : Ty) (src : Value) (indices : List Value)
  | Call (id : Nat) (callee : Value) (args : List Value)
  | ZExt (id : Nat) (src : Value) (toType : Ty)
  | Select (id : Nat) (cond x y : Value)
  deriving DecidableEq, Repr

/-- Terminators.  Targets are block identities. -/
inductive Terminator where
  | Br (target : Nat)
  | CondBr (cond : Value) (targetTrue targetFalse : Nat)
  | Ret (x : Value)
  | Unreachable
  deriving DecidableEq, Repr

/-- A basic block: `ir.Block` with its `Insts` and `Term` fields. -/
structure Block where
  name : String
  insts : List Inst
  term : Option Terminator
  deriving DecidableEq, Repr

instance : Inhabited Block := ⟨⟨"", [], none⟩⟩

/-- A function parameter (`ir.Param`). -/
structure Param where
  name : String
  typ : Ty
  deriving DecidableEq, Repr

/-- A function: `ir.Func`.  `sig` is fixed by `NewFunc`; `params` and
`blocks` are the mutable fields `Params` and `Blocks`. -/
structure Func where
  name : String
  sig : Ty
  params : List Param
  blocks : List Nat
  deriving DecidableEq, Repr

instance : Inhabited Func := ⟨⟨"", .Void, [], []⟩⟩

/-- A module global (`ir.Global`). -/
structure Global where
  name : String
  contentType : Ty
  init : Value
  deriving DecidableEq, Repr

instance : Inhabited Global := ⟨⟨"", .Void, .Nil⟩⟩

/-- A module (`ir.Module`): the functions and globals it lists, in order. -/
structure Module where
  sourceFilename : String
  funcs : List Nat
  globals : List Nat
  deriving DecidableEq, Repr

/-! ## Generator state -/

/-- The generator `IRGenerator`.  The fields `funcs`, `blocks`, `globals`
(objects by address), `nfuncs`, `nblocks`, `nglobals` (next free address)
and `nextId` are the object store (the Go heap of IR objects).  The field
`lateWrites` is a ghost counter with no Go counterpart: it counts the writes
into a block that already had a terminator (an instruction appended to it,
or its terminator assigned again), which the Go data structure does not
record.  The field `lazyDeclared` is a ghost log with no Go counterpart
either: one entry, the name and the function made, for every function that
`generateCallExpression` declares for a call to an unbound name
(`g.module.NewFunc(funcName, types.I32)`); entries are only appended and
no lowering reads the log. -/
structure IRGenerator where
  errors : List String
  moduleName : String
  module : Module
  currentFunc : Option Nat
  currentBB : Option Nat
  symbolTable : List (String × Value)
  typeTable : List (String × Ty)
  generateDebug : Bool
  labelCounter : Nat
  funcs : Nat → Func
  nfuncs : Nat
  blocks : Nat → Block
  nblocks : Nat
  globals : Nat → Global
  nglobals : Nat
  nextId : Nat
  lateWrites : Nat
  lazyDeclared : List (String × Nat)

/-! A lowering step returns `Except String (α × IRGenerator)`: the returned
data and the updated generator, or a Go run-time panic. -/

/-- The message of a nil dereference. -/
def nilDeref : String := "invalid memory address or nil pointer dereference"

/-- The generator built by `New()`. -/
def New : IRGenerator :=
  { errors := []
    moduleName := "gominus_module"
    module := ⟨"", [], []⟩
    currentFunc := none
    currentBB := none
    symbolTable := []
    typeTable := []
    generateDebug := false
    labelCounter := 0
    funcs := fun _ => default
    nfuncs := 0
    blocks := fun _ => default
    nblocks := 0
    globals := fun _ => default
    nglobals := 0
    nextId := 0
    lateWrites := 0
    lazyDeclared := [] }

/-- Map lookup `m[key]` (the most recent binding wins). -/
def lookup {α : Type} (key : String) : List (String × α) → Option α
  | [] => none
  | (k, v) :: rest => if k = key then some v else lookup key rest

/-- Map assignment `m[key] = v`. -/
def assign {α : Type} (key : String) (v : α) (m : List (String × α)) : List (String × α) :=
  (key, v) :: m

/-- The method `ReportError`: append one diagnostic. -/
@[simps]
def IRGenerator.ReportError (g : IRGenerator) (msg : String) : IRGenerator :=
  { g with errors := g.errors ++ [msg] }

/-- The assignment `g.currentBB = blk`. -/
@[simps]
def IRGenerator.setCurrentBB (g : IRGenerator) (blk : Option Nat) : IRGenerator :=
  { g with currentBB := blk }

/-- The assignment `g.currentFunc = fn`. -/
@[simps]
def IRGenerator.setCurrentFunc (g : IRGenerator) (fn : Option Nat) : IRGenerator :=
  { g with currentFunc := fn }

/-- The assignment `g.symbolTable[name] = v`. -/
@[simps]
def IRGenerator.bindSymbol (g : IRGenerator) (name : String) (v : Value) : IRGenerator :=
  { g with symbolTable := assign name v g.symbolTable }

/-- Ghost step: log that the function `fn` has been declared for a call to
the unbound name `name`. -/
@[simps]
def IRGenerator.noteLazy (g : IRGenerator) (name : String) (fn : Nat) : IRGenerator :=
  { g with lazyDeclared := g.lazyDeclared ++ [(name, fn)] }

/-- The statement `g.labelCounter++`. -/
@[simps]
def IRGenerator.nextLabel (g : IRGenerator) : IRGenerator :=
  { g with labelCounter := g.labelCounter + 1 }

/-- The assignment `g.moduleName = name`. -/
@[simps]
def IRGenerator.setModuleName (g : IRGenerator) (name : String) : IRGenerator :=
  { g with moduleName := name }

/-- A fresh module named after `g.moduleName` (`ir.NewModule()` and the
assignment of `SourceFilename`). -/
@[simps]
def IRGenerator.resetModule (g : IRGenerator) : IRGenerator :=
  { g with module := ⟨g.moduleName, [], []⟩ }

/-- Take the next instruction identity. -/
@[simps]
def IRGenerator.fresh (g : IRGenerator) : IRGenerator :=
  { g with nextId := g.nextId + 1 }

/-- The store `m` with the object at address `a` replaced by `v`. -/
def update {α : Type} (m : Nat → α) (a : Nat) (v : α) : Nat → α :=
  fun x => if x = a then v else m x

/-- The block with one more instruction at the end of `Insts`. -/
@[simps]
def Block.push (blk : Block) (i : Inst) : Block :=
  { blk with insts := blk.insts ++ [i] }

/-- The block with `Term` assigned. -/
@[simps]
def Block.close (blk : Block) (t : Terminator) : Block :=
  { blk with term := some t }

/-- The function with one more block at the end of `Blocks`. -/
@[simps]
def Func.addBlock (fn : Func) (b : Nat) : Func :=
  { fn with blocks := fn.blocks ++ [b] }

/-- The module with one more function at the end of `Funcs`. -/
@[simps]
def Module.addFunc (m : Module) (f : Nat) : Module :=
  { m with funcs := m.funcs ++ [f] }

/-- The module with one more global at the end of `Globals`. -/
@[simps]
def Module.addGlobal (m : Module) (x : Nat) : Module :=
  { m with globals := m.globals ++ [x] }

/-- Append an instruction to `block.Insts`. -/
@[simps]
def IRGenerator.emit (g : IRGenerator) (b : Nat) (i : Inst) : IRGenerator :=
  { g with
    blocks := update g.blocks b ((g.blocks b).push i)
    lateWrites := if (g.blocks b).term.isSome then g.lateWrites + 1 else g.lateWrites }

/-- Assign `block.Term` (whatever it held before). -/
@[simps]
def IRGenerator.setTerm (g : IRGenerator) (b : Nat) (t : Terminator) : IRGenerator :=
  { g with
    blocks := update g.blocks b ((g.blocks b).close t)
    lateWrites := if (g.blocks b).term.isSome then g.lateWrites + 1 else g.lateWrites }

/-- The field read `block.Term` through a nullable block pointer. -/
def IRGenerator.TermOf (g : IRGenerator) (blk : Option Nat) : Except String (Option Terminator) :=
  match blk with
  | none => .error nilDeref
  | some b => .ok (g.blocks b).term

/-- Emit an instruction with a result of type `ty` into `blk`. -/
def IRGenerator.NewInst (g : IRGenerator) (blk : Option Nat) (mk : Nat → Inst) (ty : Ty) :
    Except String (Value × IRGenerator) :=
  match blk with
  | none => .error nilDeref
  | some b => .ok (.Inst g.nextId ty, (g.emit b (mk g.nextId)).fresh)

/-- The method `block.NewAlloca(elemType)` followed by `SetName(name)`. -/
def IRGenerator.NewAlloca (g : IRGenerator) (blk : Option Nat) (elemType : Ty)
    (name : String) : Except String (Value × IRGenerator) :=
  g.NewInst blk (fun id => .Alloca id elemType name) (.Pointer elemType)

/-- The method `block.NewLoad(elemType, src)`. -/
def IRGenerator.NewLoad (g : IRGenerator) (blk : Option Nat) (elemType : Ty) (src : Value) :
    Except String (Value × IRGenerator) :=
  g.NewInst blk (fun id => .Load id elemType src) elemType

/-- The type check of the constructor `ir.NewStore(src, dst)`: the
destination has a pointer type and the source has the type it points to;
the constructor panics otherwise (on a nil source, when it asks for its
type). -/
def storeCheck (src dst : Value) : Except String Unit :=
  match dst.Type with
  | .Pointer e =>
    if src.Type = e then .ok ()
    else if src = .Nil then .error nilDeref
    else .error ("store operands are not compatible: src=" ++ src.Type.String ++ "; dst="
      ++ dst.Type.String)
  | t => .error ("invalid store dst operand type; expected *types.PointerType, got " ++ t.goType)

/-- The method `block.NewStore(src, dst)`: the constructor checks the operand
types, then the instruction is appended to the block. -/
def IRGenerator.NewStore (g : IRGenerator) (blk : Option Nat) (src dst : Value) : Except String (Unit × IRGenerator) :=
  match storeCheck src dst with
  | .error e => .error e
  | .ok _ =>
    match blk with
    | none => .error nilDeref
    | some b => .ok ((), g.emit b (.Store src dst))

/-- The methods `block.NewAdd`, `NewSub`, ... `NewOr`: the result has the type
of the first operand. -/
def IRGenerator.NewBin (g : IRGenerator) (blk : Option Nat) (op : BinOp) (x y : Value) :
    Except String (Value × IRGenerator) :=
  g.NewInst blk (fun id => .Bin id op x y) x.Type

/-- The method `block.NewICmp(pred, x, y)`: the constructor computes the
result type from the type of `x` and panics unless that is an integer or a
pointer type (vector types do not occur). -/
def IRGenerator.NewICmp (g : IRGenerator) (blk : Option Nat) (pred : IPred) (x y : Value) :
    Except String (Value × IRGenerator) :=
  if x.Type.IsInt || x.Type.IsPointer then g.NewInst blk (fun id => .ICmp id pred x y) .I1
  else .error ("invalid icmp operand type; expected *types.IntType, *types.PointerType or "
    ++ "*types.VectorType, got " ++ x.Type.goType)

/-- The method `block.NewFCmp(pred, x, y)`: the constructor computes the
result type from the type of `x` and panics unless that is a floating-point
type (vector types do not occur). -/
def IRGenerator.NewFCmp (g : IRGenerator) (blk : Option Nat) (pred : FPred) (x y : Value) :
    Except String (Value × IRGenerator) :=
  if x.Type.IsFloat then g.NewInst blk (fun id => .FCmp id pred x y) .I1
  else .error ("invalid fcmp operand type; expected *types.FloatType or *types.VectorType, got "
    ++ x.Type.goType)

/-- Element type reached by the indices of a `getelementptr` after the
first one, for indices that fit the type (see `gepResult`). -/
def gepElem : Ty → List Value → Ty
  | t, [] => t
  | .Array _ e, _ :: rest => gepElem e rest
  | .Struct fs, (.ConstInt _ k) :: rest => gepElem ((fs.get? k.toNat).getD .Void) rest
  | t, _ :: _ => t

/-- The result type computation of `ir.NewGetElementPtr` (`gep.ResultType`)
for the indices after the first one: an array is entered by any index, a
struct by a constant index that names one of its fields, and every other
type cannot be indexed: the constructor panics.  The indices the generator
passes are 32-bit constants, loaded values and values of integer type. -/
def gepResult : Ty → List Value → Except String Ty
  | t, [] => .ok t
  | .Array _ e, _ :: rest => gepResult e rest
  | .Struct fs, (.ConstInt _ k) :: rest =>
    if k < 0 then .error "index out of range"
    else
      match fs.get? k.toNat with
      | some t => gepResult t rest
      | none => .error "index out of range"
  | .Struct fs, _ :: _ =>
    .error ("unable to index into struct type " ++ (Ty.Struct fs).String
      ++ " using gep with non-constant index")
  | t, _ :: _ => .error ("cannot index into type " ++ t.goType ++ " using gep")

/-- The method `block.NewGetElementPtr(elemType, src, indices...)`: the
constructor computes the result type, which panics when an index after the
first one meets a type that cannot be indexed. -/
def IRGenerator.NewGetElementPtr (g : IRGenerator) (blk : Option Nat) (elemType : Ty)
    (src : Value) (indices : List Value) : Except String (Value × IRGenerator) :=
  match gepResult elemType indices.tail with
  | .error e => .error e
  | .ok t => g.NewInst blk (fun id => .GetElementPtr id elemType src indices) (.Pointer t)

/-- Return type of a callee (a pointer to a function type). -/
def calleeRet (callee : Value) : Ty :=
  match callee.Type with
  | .Pointer (.Func ret _ _) => ret
  | _ => .Void

/-- The method `block.NewCall(callee, args...)`: the constructor reads the
signature of the callee and panics unless the callee has a pointer-to-function
type.  A function object (`*ir.Func`) has such a type by construction. -/
def IRGenerator.NewCall (g : IRGenerator) (blk : Option Nat) (callee : Value)
    (args : List Value) : Except String (Value × IRGenerator) :=
  match callee with
  | .Func _ _ => g.NewInst blk (fun id => .Call id callee args) (calleeRet callee)
  | _ =>
    match callee.Type with
    | .Pointer (.Func _ _ _) => g.NewInst blk (fun id => .Call id callee args) (calleeRet callee)
    | .Pointer t => .error ("invalid callee type; expected *types.FuncType, got " ++ t.goType)
    | t => .error ("invalid callee type; expected *types.PointerType, got " ++ t.goType)

/-- The method `block.NewZExt(src, to)`. -/
def IRGenerator.NewZExt (g : IRGenerator) (blk : Option Nat) (src : Value) (toType : Ty) :
    Except String (Value × IRGenerator) :=
  g.NewInst blk (fun id => .ZExt id src toType) toType

/-- The method `block.NewSelect(cond, x, y)`. -/
def IRGenerator.NewSelect (g : IRGenerator) (blk : Option Nat) (cond x y : Value) :
    Except String (Value × IRGenerator) :=
  g.NewInst blk (fun id => .Select id cond x y) x.Type

/-- Assign the terminator of `blk` through a nullable block pointer. -/
def IRGenerator.NewTerm (g : IRGenerator) (blk : Option Nat) (t : Terminator) : Except String (Unit × IRGenerator) :=
  match blk with
  | none => .error nilDeref
  | some b => .ok ((), g.setTerm b t)

/-- The method `block.NewBr(target)`. -/
def IRGenerator.NewBr (g : IRGenerator) (blk : Option Nat) (target : Nat) : Except String (Unit × IRGenerator) :=
  g.NewTerm blk (.Br target)

/-- The method `block.NewCondBr(cond, targetTrue, targetFalse)`. -/
def IRGenerator.NewCondBr (g : IRGenerator) (blk : Option Nat) (cond : Value)
    (targetTrue targetFalse : Nat) : Except String (Unit × IRGenerator) :=
  g.NewTerm blk (.CondBr cond targetTrue targetFalse)

/-- The method `block.NewRet(x)`. -/
def IRGenerator.NewRet (g : IRGenerator) (blk : Option Nat) (x : Value) : Except String (Unit × IRGenerator) :=
  g.NewTerm blk (.Ret x)

/-- The method `block.NewUnreachable()`. -/
def IRGenerator.NewUnreachable (g : IRGenerator) (blk : Option Nat) : Except String (Unit × IRGenerator) :=
  g.NewTerm blk .Unreachable

/-- A new empty block appended to the blocks of function `f`. -/
@[simps]
def IRGenerator.addBlock (g : IRGenerator) (f : Nat) (name : String) : IRGenerator :=
  { g with
    blocks := update g.blocks g.nblocks ⟨name, [], none⟩
    nblocks := g.nblocks + 1
    funcs := update g.funcs f ((g.funcs f).addBlock g.nblocks) }

/-- The method `fn.NewBlock(name)`: a new empty block appended to
`fn.Blocks`; returns its identity. -/
def IRGenerator.NewBlock (g : IRGenerator) (fn : Option Nat) (name : String) :
    Except String (Nat × IRGenerator) :=
  match fn with
  | none => .error nilDeref
  | some f => .ok (g.nblocks, g.addBlock f name)

/-- A new function without blocks appended to the functions of the module. -/
@[simps]
def IRGenerator.addFunc (g : IRGenerator) (name : String) (retType : Ty)
    (params : List Param) : IRGenerator :=
  { g with
    funcs := update g.funcs g.nfuncs
      ⟨name, .Func retType (TyList.ofList (params.map (·.typ))) false, params, []⟩
    nfuncs := g.nfuncs + 1
    module := g.module.addFunc g.nfuncs }

/-- The method `g.module.NewFunc(name, retType, params...)`: a new function
without blocks appended to `module.Funcs`; returns its identity. -/
def IRGenerator.NewFunc (g : IRGenerator) (name : String) (retType : Ty)
    (params : List Param) : Nat × IRGenerator :=
  (g.nfuncs, g.addFunc name retType params)

/-- Replace the function object behind `f`. -/
@[simps]
def IRGenerator.setFunc (g : IRGenerator) (f : Nat) (fn : Func) : IRGenerator :=
  { g with funcs := update g.funcs f fn }

/-- The assignment `fn.Sig.Variadic = true`. -/
def IRGenerator.setVariadic (g : IRGenerator) (f : Nat) : IRGenerator :=
  match (g.funcs f).sig with
  | .Func ret params _ =>
    g.setFunc f { g.funcs f with sig := .Func ret params true }
  | _ => g

/-- The assignment `fn.Params = append(fn.Params, param)`. -/
def IRGenerator.appendParam (g : IRGenerator) (f : Nat) (p : Param) : IRGenerator :=
  g.setFunc f { g.funcs f with params := (g.funcs f).params ++ [p] }

/-- The call `fn.Params[i].SetName(name)`. -/
def IRGenerator.setParamName (g : IRGenerator) (f : Nat) (i : Nat) (name : String) :
    IRGenerator :=
  g.setFunc f { g.funcs f with
    params := (g.funcs f).params.set i { (g.funcs f).params.getD i ⟨"", .Void⟩ with name := name } }

/-- The function value behind a function pointer. -/
def IRGenerator.funcValue (g : IRGenerator) (f : Nat) : Value :=
  .Func f (g.funcs f).sig

/-- A new global appended to the globals of the module. -/
@[simps]
def IRGenerator.addGlobal (g : IRGenerator) (name : String) (init : Value) : IRGenerator :=
  { g with
    globals := update g.globals g.nglobals ⟨name, init.Type, init⟩
    nglobals := g.nglobals + 1
    module := g.module.addGlobal g.nglobals }

/-- The assignment `global.Init = init`. -/
@[simps]
def IRGenerator.setGlobalInit (g : IRGenerator) (id : Nat) (init : Value) : IRGenerator :=
  { g with globals := update g.globals id { g.globals id with init := init } }

/-- The method `g.module.NewGlobalDef(name, init)`; returns its identity. -/
def IRGenerator.NewGlobalDef (g : IRGenerator) (name : String) (init : Value) :
    Nat × IRGenerator :=
  (g.nglobals, g.addGlobal name init)

/-- The method `getFunction`: first function of the module with that name. -/
def IRGenerator.getFunction (g : IRGenerator) (name : String) : Option Nat :=
  g.module.funcs.find? (fun f => (g.funcs f).name = name)

/-! ## What a lowering preserves and keeps -/

/-- What lowering never undoes: diagnostics are only appended, the counters
(labels, addresses of blocks, functions and globals, instruction
identities) only grow, and the type table and the debug flag stay. -/
structure Grows (g g' : IRGenerator) : Prop where
  errors : g.errors <+: g'.errors
  labelCounter : g.labelCounter ≤ g'.labelCounter
  nblocks : g.nblocks ≤ g'.nblocks
  nfuncs : g.nfuncs ≤ g'.nfuncs
  nglobals : g.nglobals ≤ g'.nglobals
  nextId : g.nextId ≤ g'.nextId
  typeTable : g'.typeTable = g.typeTable
  generateDebug : g'.generateDebug = g.generateDebug

/-- What lowering leaves in place of the functions, seen from the generator
`a` it starts from: no function is removed, every function of `a` keeps its
name, every function of `a` other than its current function keeps its list
of blocks, and every function listed in the module stays listed.  The ghost
log of lazily declared functions keeps its entries, and (when the current
function of `a` exists) every entry added since names a function made
since, which carries the logged name, has no block and is listed in the
module. -/
structure FuncsKept (a g : IRGenerator) : Prop where
  nfuncs : a.nfuncs ≤ g.nfuncs
  names : ∀ f, f < a.nfuncs → (g.funcs f).name = (a.funcs f).name
  blocks : ∀ f, f < a.nfuncs → a.currentFunc ≠ some f → (g.funcs f).blocks = (a.funcs f).blocks
  listed : ∀ f ∈ a.module.funcs, f ∈ g.module.funcs
  logged : ∀ p ∈ a.lazyDeclared, p ∈ g.lazyDeclared
  declared : (∀ d, a.currentFunc = some d → d < a.nfuncs) →
    ∀ p ∈ g.lazyDeclared, p ∈ a.lazyDeclared ∨
      (a.nfuncs ≤ p.2 ∧ p.2 < g.nfuncs ∧ (g.funcs p.2).name = p.1 ∧
        (g.funcs p.2).blocks = [] ∧ p.2 ∈ g.module.funcs)

/-- What lowering leaves in place, seen from the generator `a` it starts
from: no block is removed, the current function is the same, the current
block is the one of `a` or a block created since (inside a function), a
missing current block was missing in `a`, a current block that exists in `a`
still exists, every block of `a` other than its current block is untouched,
every block of `a` keeps its name, and if every value bound in the symbol
table of `a` has a pointer type then so has every value bound in the symbol
table of `g`.  The list `B` names blocks that exist in `g`.  The functions
are kept in the sense of `FuncsKept`. -/
structure Keeps (a g : IRGenerator) (B : List Nat) : Prop where
  nblocks : a.nblocks ≤ g.nblocks
  currentFunc : g.currentFunc = a.currentFunc
  cursor : ∀ c, g.currentBB = some c →
    a.currentBB = some c ∨ (a.nblocks ≤ c ∧ a.currentFunc.isSome = true)
  cursorNone : g.currentBB = none → a.currentBB = none
  cursorValid : (∀ c, a.currentBB = some c → c < a.nblocks) →
    ∀ c, g.currentBB = some c → c < g.nblocks
  blocks : ∀ c, c < a.nblocks → a.currentBB ≠ some c → g.blocks c = a.blocks c
  names : ∀ c, c < a.nblocks → (g.blocks c).name = (a.blocks c).name
  symbols : (∀ p ∈ a.symbolTable, p.2.Type.IsPointer = true) →
    ∀ p ∈ g.symbolTable, p.2.Type.IsPointer = true
  made : ∀ b ∈ B, b < g.nblocks
  functions : FuncsKept a g

/-! ## Nodes lowered outside `irgen.go`

The type switches of `generateStatement` and `generateExpression` send
eight node kinds to methods that are in other files of the package. -/

/-- Modelled from the spec: the lowering of an expression node by a method
that is not in `irgen.go` (`generateNewExpression`,
`generateMemberExpression`, `generateTemplateExpression`,
`generateTryExpression`).  The spec gives these methods by their contract
only (the dispatch cases "reuse the same Cursor/Environment/ExceptionInfo
machinery"), so the node carries the method applied to it as the parameter
`run`, an arbitrary function on the generator bound to what the spec says of
every lowering: the Error Sink is "an append-only list", the Type Table "a
fixed mapping" and objects are only added (`grows`); a lowering "emits zero
or more instructions/blocks into the current function", "the Cursor's
saved/restored pair (function, block) is pushed/popped around any lowering
that temporarily changes it", and the Environment maps names "to target-level
storage locations or callable handles" (`keeps`); an expression lowering
"returns a Value or signals failure (absence of value) with a diagnostic"
(`reports`). -/
structure ExternalExpression where
  run : IRGenerator → Except String (Option Value × IRGenerator)
  grows : ∀ g r g', run g = .ok (r, g') → Grows g g'
  keeps : ∀ g r g', run g = .ok (r, g') → Keeps g g' []
  reports : ∀ g g', run g = .ok (none, g') → g.errors.length < g'.errors.length

/-- Modelled from the spec: the lowering of a statement node by a method
that is not in `irgen.go` (`generateClassStatement`,
`generateTemplateStatement`, `generateTryCatchStatement`,
`generateThrowStatement`), under the same contract as `ExternalExpression`
(a statement lowering "never returns a value"). -/
structure ExternalStatement where
  run : IRGenerator → Except String (Unit × IRGenerator)
  grows : ∀ g r g', run g = .ok (r, g') → Grows g g'
  keeps : ∀ g r g', run g = .ok (r, g') → Keeps g g' []

/-! ## Source AST (`internal/ast`), as far as the generator reads it -/

mutual
/-- Expression nodes.  A nullable `*ast.BlockStatement` is an optional list
of statements.  `MemberCall` is a `CallExpression` whose `Function` is a
`MemberExpression`; `NewExpression`, `MemberExpression` (a stand-alone
member access), `TemplateExpression` and `TryExpression` are lowered by
methods outside `irgen.go` and carry that lowering; `Other` is a node kind
without a case in the type switch of `generateExpression` (its Go type name
is kept for the `%T` diagnostics). -/
inductive Expression where
  | Identifier (value : String)
  | IntegerLiteral (value : Int)
  | FloatLiteral (bits : Nat)
  | StringLiteral (value : String)
  | BooleanLiteral (value : Bool)
  | PrefixExpression (operator : String) (right : Expression)
  | InfixExpression (left : Expression) (operator : String) (right : Expression)
  | PostfixExpression (left : Expression) (operator : String)
  | CallExpression (function : Expression) (arguments : List Expression)
  | MemberCall (object member : Expression) (arguments : List Expression)
  | FunctionLiteral (parameters : List String) (body : Option (List Statement))
  | IfExpression (condition : Expression) (consequence alternative : Option (List Statement))
  | NewExpression (lowering : ExternalExpression)
  | MemberExpression (lowering : ExternalExpression)
  | TemplateExpression (lowering : ExternalExpression)
  | TryExpression (lowering : ExternalExpression)
  | ArrayLiteral (elements : List Expression)
  | IndexExpression (left index : Expression)
  | ArrayType (size : Option Expression) (elementType : Expression)
  | Other (goType : String)
/-- Statement nodes.  `ClassStatement`, `TemplateStatement`,
`TryCatchStatement` and `ThrowStatement` are lowered by methods outside
`irgen.go` and carry that lowering; `Other` is a node kind without a case in
the type switch of `generateStatement`. -/
inductive Statement where
  | PackageStatement (name : String)
  | ImportStatement
  | ExpressionStatement (expression : Expression)
  | VarStatement (name : String) (type value : Option Expression)
  | ReturnStatement (returnValue : Option Expression)
  | BlockStatement (statements : List Statement)
  | WhileStatement (condition : Expression) (body : Option (List Statement))
  | ForStatement (init : Option Statement) (condition : Option Expression)
      (post : Option Statement) (body : Option (List Statement))
  | SwitchStatement (tag : Option Expression) (cases : List CaseClause)
  | FunctionStatement (name : String) (parameters : List String)
      (returnType : Option Expression) (body : Option (List Statement))
  | ClassStatement (lowering : ExternalStatement)
  | TemplateStatement (lowering : ExternalStatement)
  | TryCatchStatement (lowering : ExternalStatement)
  | ThrowStatement (lowering : ExternalStatement)
  | Other (goType : String)
/-- A `case` or `default` clause of a switch (`isDefault` is
`Token.Type == token.DEFAULT`). -/
inductive CaseClause where
  | mk (isDefault : Bool) (values : List Expression) (body : List Statement)
end

/-- The `isDefault` flag of a clause. -/
def CaseClause.isDefault : CaseClause → Bool
  | .mk d _ _ => d

/-- A program: its top-level statements. -/
abbrev Program := List Statement

/-- Go type name of an expression node, as `%T` prints it. -/
def Expression.goType : Expression → String
  | .Identifier _ => "*ast.Identifier"
  | .IntegerLiteral _ => "*ast.IntegerLiteral"
  | .FloatLiteral _ => "*ast.FloatLiteral"
  | .StringLiteral _ => "*ast.StringLiteral"
  | .BooleanLiteral _ => "*ast.BooleanLiteral"
  | .PrefixExpression _ _ => "*ast.PrefixExpression"
  | .InfixExpression _ _ _ => "*ast.InfixExpression"
  | .PostfixExpression _ _ => "*ast.PostfixExpression"
  | .CallExpression _ _ => "*ast.CallExpression"
  | .MemberCall _ _ _ => "*ast.CallExpression"
  | .FunctionLiteral _ _ => "*ast.FunctionLiteral"
  | .IfExpression _ _ _ => "*ast.IfExpression"
  | .NewExpression _ => "*ast.NewExpression"
  | .MemberExpression _ => "*ast.MemberExpression"
  | .TemplateExpression _ => "*ast.TemplateExpression"
  | .TryExpression _ => "*ast.TryExpression"
  | .ArrayLiteral _ => "*ast.ArrayLiteral"
  | .IndexExpression _ _ => "*ast.IndexExpression"
  | .ArrayType _ _ => "*ast.ArrayType"
  | .Other t => t

/-! ## Lowering: the parts without recursion on the AST -/

/-- Wrap the value of an emitted instruction as an expression result. -/
def asResult (r : Except String (Value × IRGenerator)) : Except String (Option Value × IRGenerator) :=
  match r with
  | .error e => .error e
  | .ok (v, g) => .ok (some v, g)

/-- The method `defineBasicTypes`. -/
@[simps]
def defineBasicTypes (g : IRGenerator) : IRGenerator :=
  { g with typeTable := (
      assign "string" (.Pointer .I8) <| assign "rune" .I32 <| assign "byte" .I8 <|
      assign "bool" .I1 <| assign "float64" .Double <| assign "float32" .Float <|
      assign "float" .Double <| assign "uint64" .I64 <| assign "uint32" .I32 <|
      assign "uint16" .I16 <| assign "uint8" .I8 <| assign "uint" .I32 <|
      assign "int64" .I64 <| assign "int32" .I32 <| assign "int16" .I16 <|
      assign "int8" .I8 <| assign "int" .I32 g.typeTable) }

/-- The method `createMainFunction`. -/
def createMainFunction (g : IRGenerator) : Except String (Unit × IRGenerator) :=
  let (mainFunc, g) := g.NewFunc "main" .I32 []
  match g.NewBlock (some mainFunc) "entry" with
  | .error e => .error e
  | .ok (entryBlock, g) => g.NewRet (some entryBlock) (.ConstInt .I32 0)

/-- The method `getValueType`. -/
def getValueType (val : Option Value) : Option Ty :=
  val.map Value.Type

/-- The method `getExpressionType`. -/
def getExpressionType : Expression → IRGenerator → Option Ty × IRGenerator
  | .Identifier name, g =>
    match lookup name g.symbolTable with
    | some val => (getValueType (some val), g)
    | none => (none, g)
  | .IntegerLiteral _, g => (some .I32, g)
  | .FloatLiteral _, g => (some .Double, g)
  | .StringLiteral _, g => (some (.Pointer .I8), g)
  | .BooleanLiteral _, g => (some .I1, g)
  | .PrefixExpression _ right, g => getExpressionType right g
  | .InfixExpression left op right, g =>
    if op = "+" || op = "-" || op = "*" || op = "/" then
      let (leftType, g) := getExpressionType left g
      let (rightType, g) := getExpressionType right g
      if leftType = some .Double || rightType = some .Double then (some .Double, g)
      else (some .I32, g)
    else if op = "==" || op = "!=" || op = "<" || op = ">" || op = "<=" || op = ">=" then
      (some .I1, g)
    else (some .I32, g)
  | .ArrayLiteral elements, g =>
    match elements with
    | [] => (some (.Pointer .I32), g)
    | first :: _ =>
      let (elementType, g) := getExpressionType first g
      (some (.Pointer (.Array elements.length (elementType.getD .I32))), g)
  | .IndexExpression left _, g =>
    let (arrayType, g) := getExpressionType left g
    match arrayType with
    | some (.Pointer (.Array _ e)) => (some e, g)
    | some (.Pointer e) => (some e, g)
    | _ => (some .I32, g)
  | e, g =>
    (none, g.ReportError ("Desteklenmeyen ifade türü (tip belirlenemiyor): " ++ e.goType))

/-- The method `generateStringLiteral`. -/
def generateStringLiteral (value : String) (g : IRGenerator) : Value × IRGenerator :=
  let init := Value.ConstCharArray (value.push (Char.ofNat 0))
  let (strConst, g) := g.NewGlobalDef "" init
  (.ConstGEP00 init.Type strConst, g)

/-- The method `generateBooleanLiteral`. -/
def generateBooleanLiteral (value : Bool) : Value :=
  if value then .ConstInt .I1 1 else .ConstInt .I1 0

/-- The method `generateConstantExpression`. -/
def generateConstantExpression : Expression → IRGenerator → Option Value × IRGenerator
  | .IntegerLiteral v, g => (some (.ConstInt .I32 v), g)
  | .FloatLiteral b, g => (some (.ConstFloat .Double b), g)
  | .BooleanLiteral v, g => (some (generateBooleanLiteral v), g)
  | .StringLiteral v, g =>
    let (c, g) := generateStringLiteral v g
    (some c, g)
  | e, g => (none, g.ReportError ("Desteklenmeyen sabit ifade türü: " ++ e.goType))

/-- The method `generateIdentifier`. -/
def generateIdentifier (name : String) (g : IRGenerator) : Except String (Option Value × IRGenerator) :=
  match lookup name g.symbolTable with
  | some val =>
    match val.Type with
    | .Pointer elemType =>
      if g.currentBB.isSome then asResult (g.NewLoad g.currentBB elemType val)
      else .ok (some val, g)
    | _ => .ok (some val, g)
  | none => .ok (none, g.ReportError ("Tanımlanmamış tanımlayıcı: " ++ name))

/-- The operator switch of `generatePrefixExpression`, after the operand has
been lowered to `right`. -/
def prefixOperator (op : String) (right : Value) (g : IRGenerator) : Except String (Option Value × IRGenerator) :=
  if g.currentBB.isNone then
    .ok (none, g.ReportError "Geçerli bir blok yok, önek ifadesi değerlendirilemiyor")
  else if op = "!" then
    asResult (g.NewBin g.currentBB .Xor right (.ConstInt .I1 1))
  else if op = "-" && right.Type.IsInt then
    asResult (g.NewBin g.currentBB .Sub (.ConstInt .I32 0) right)
  else if op = "-" && right.Type.IsFloat then
    asResult (g.NewBin g.currentBB .FSub (.ConstFloat .Double 0) right)
  else
    .ok (none, g.ReportError ("Desteklenmeyen önek operatörü: " ++ op))

/-- The method `generatePostfixExpression`. -/
def generatePostfixExpression (left : Expression) (op : String) (g : IRGenerator) :
    Except String (Option Value × IRGenerator) :=
  match left with
  | .Identifier varName =>
    match lookup varName g.symbolTable with
    | none => .ok (none, g.ReportError ("Tanımlanmamış değişken: " ++ varName))
    | some varAddr =>
      if g.currentBB.isNone then
        .ok (none, g.ReportError "Geçerli bir blok yok, postfix ifadesi değerlendirilemiyor")
      else
        match varAddr.Type with
        | .Pointer elemType => do
          let (currentVal, g) ← g.NewLoad g.currentBB elemType varAddr
          if op = "++" then
            if currentVal.Type.IsInt then do
              let (newVal, g) ← g.NewBin g.currentBB .Add currentVal (.ConstInt .I32 1)
              let (_, g) ← g.NewStore g.currentBB newVal varAddr
              pure (some currentVal, g)
            else
              pure (none, g.ReportError "++ operatörü sadece integer tiplerinde kullanılabilir")
          else if op = "--" then
            if currentVal.Type.IsInt then do
              let (newVal, g) ← g.NewBin g.currentBB .Sub currentVal (.ConstInt .I32 1)
              let (_, g) ← g.NewStore g.currentBB newVal varAddr
              pure (some currentVal, g)
            else
              pure (none, g.ReportError "-- operatörü sadece integer tiplerinde kullanılabilir")
          else
            pure (none, g.ReportError ("Desteklenmeyen postfix operatörü: " ++ op))
        | _ => .error "interface conversion: types.Type is not *types.PointerType"
  | _ =>
    .ok (none, g.ReportError "Postfix operatörü sadece değişkenler üzerinde kullanılabilir")

/-- The method `isStringType`. -/
def isStringType : Ty → Bool
  | .Pointer (.Array _ e) => e = .I8
  | .Pointer e => e = .I8
  | _ => false

/-- Find the runtime helper `name` in the module or declare it and bind it
in the symbol table (the pattern repeated in `generateStringConcatenation`,
`generateBoundsCheck` and `generatePrintfCall`). -/
def getOrDeclare (name : String) (retType : Ty) (params : List Param) (variadic : Bool)
    (g : IRGenerator) : Nat × IRGenerator :=
  match g.getFunction name with
  | some f => (f, g)
  | none =>
    let (f, g) := g.NewFunc name retType params
    let g := if variadic then g.setVariadic f else g
    (f, g.bindSymbol name (g.funcValue f))

/-- The method `generateStringConcatenation`. -/
def generateStringConcatenation (left right : Value) (g : IRGenerator) : Except String (Option Value × IRGenerator) :=
  if g.currentBB.isNone then
    .ok (none, g.ReportError "Geçerli bir blok yok, string concatenation yapılamıyor")
  else do
    let (strcatFunc, g) := getOrDeclare "strcat" (.Pointer .I8)
      [⟨"dest", .Pointer .I8⟩, ⟨"src", .Pointer .I8⟩] false g
    let (strlenFunc, g) := getOrDeclare "strlen" .I32 [⟨"str", .Pointer .I8⟩] false g
    let (mallocFunc, g) := getOrDeclare "malloc" (.Pointer .I8) [⟨"size", .I32⟩] false g
    let (strcpyFunc, g) := getOrDeclare "strcpy" (.Pointer .I8)
      [⟨"dest", .Pointer .I8⟩, ⟨"src", .Pointer .I8⟩] false g
    let (leftLen, g) ← g.NewCall g.currentBB (g.funcValue strlenFunc) [left]
    let (rightLen, g) ← g.NewCall g.currentBB (g.funcValue strlenFunc) [right]
    let (totalLen, g) ← g.NewBin g.currentBB .Add leftLen rightLen
    let (totalLen, g) ← g.NewBin g.currentBB .Add totalLen (.ConstInt .I32 1)
    let (newBuffer, g) ← g.NewCall g.currentBB (g.funcValue mallocFunc) [totalLen]
    let (_, g) ← g.NewCall g.currentBB (g.funcValue strcpyFunc) [newBuffer, left]
    let (result, g) ← g.NewCall g.currentBB (g.funcValue strcatFunc) [newBuffer, right]
    pure (some result, g)

/-- The method `generateBoundsCheck`. -/
def generateBoundsCheck (index length : Value) (g : IRGenerator) : Except String (Unit × IRGenerator) :=
  if g.currentBB.isNone then
    .ok ((), g.ReportError "Geçerli bir blok yok, bounds check yapılamıyor")
  else do
    let (negativeCheck, g) ← g.NewICmp g.currentBB .SLT index (.ConstInt .I32 0)
    let (boundsCheck, g) ← g.NewICmp g.currentBB .SGE index length
    let (outOfBounds, g) ← g.NewBin g.currentBB .Or negativeCheck boundsCheck
    let (panicBlock, g) ← g.NewBlock g.currentFunc "bounds_panic"
    let (normalBlock, g) ← g.NewBlock g.currentFunc "bounds_ok"
    let (_, g) ← g.NewCondBr g.currentBB outOfBounds panicBlock normalBlock
    let g := g.setCurrentBB (some panicBlock)
    let (panicFunc, g) := getOrDeclare "panic" .Void [⟨"message", .Pointer .I8⟩] false g
    let (errorMsg, g) := generateStringLiteral "runtime error: index out of range" g
    let (_, g) ← g.NewCall g.currentBB (g.funcValue panicFunc) [errorMsg]
    let (_, g) ← g.NewUnreachable g.currentBB
    pure ((), g.setCurrentBB (some normalBlock))

/-- The operator switch of `generateInfixExpression` for the operators that
need no further lowering (all but `:=`, `&&` and `||`), after both operands
have been lowered and the current block has been checked. -/
def infixOperator (leftExpr : Expression) (op : String) (left right : Value)
    (g : IRGenerator) : Except String (Option Value × IRGenerator) :=
  let ints := left.Type.IsInt && right.Type.IsInt
  let floats := left.Type.IsFloat && right.Type.IsFloat
  let unsupported : Except String (Option Value × IRGenerator) :=
    .ok (none, g.ReportError ("Desteklenmeyen araek operatörü: " ++ op))
  let arith (iop fop : BinOp) : Except String (Option Value × IRGenerator) :=
    if ints then asResult (g.NewBin g.currentBB iop left right)
    else if floats then asResult (g.NewBin g.currentBB fop left right)
    else unsupported
  let compare (ip : IPred) (fp : FPred) : Except String (Option Value × IRGenerator) :=
    if ints then asResult (g.NewICmp g.currentBB ip left right)
    else if floats then asResult (g.NewFCmp g.currentBB fp left right)
    else unsupported
  if op = "+" then
    if ints then asResult (g.NewBin g.currentBB .Add left right)
    else if floats then asResult (g.NewBin g.currentBB .FAdd left right)
    else if isStringType left.Type && isStringType right.Type then
      generateStringConcatenation left right g
    else unsupported
  else if op = "-" then arith .Sub .FSub
  else if op = "*" then arith .Mul .FMul
  else if op = "/" then arith .SDiv .FDiv
  else if op = "=" then
    match leftExpr with
    | .Identifier name =>
      match lookup name g.symbolTable with
      | some val =>
        match g.NewStore g.currentBB right val with
        | .error e => .error e
        | .ok (_, g) => .ok (some right, g)
      | none => .ok (none, g.ReportError ("Tanımlanmamış tanımlayıcı: " ++ name))
    | _ => .ok (none, g.ReportError "Atama operatörünün sol tarafı bir tanımlayıcı olmalıdır")
  else if op = "==" then compare .EQ .OEQ
  else if op = "!=" then compare .NE .ONE
  else if op = "<" then compare .SLT .OLT
  else if op = ">" then compare .SGT .OGT
  else if op = "<=" then compare .SLE .OLE
  else if op = ">=" then compare .SGE .OGE
  else unsupported

/-- The loop of `generateSwitchStatement` that creates one block per clause;
returns the case blocks and the default block (if any clause is a default). -/
def newCaseBlocks : List CaseClause → Nat → String → Option Nat → IRGenerator →
    Except String ((List Nat × Option Nat) × IRGenerator)
  | [], _, _, defaultBlock, g => .ok (([], defaultBlock), g)
  | c :: rest, i, labelSuffix, defaultBlock, g =>
    if c.isDefault then do
      let (b, g) ← g.NewBlock g.currentFunc ("switch.default." ++ labelSuffix)
      let ((bs, d), g) ← newCaseBlocks rest (i + 1) labelSuffix (some b) g
      pure ((b :: bs, d), g)
    else do
      let (b, g) ← g.NewBlock g.currentFunc
        ("switch.case." ++ toString i ++ "." ++ labelSuffix)
      let ((bs, d), g) ← newCaseBlocks rest (i + 1) labelSuffix defaultBlock g
      pure ((b :: bs, d), g)

/-- The parameter loop of `generateFunctionStatement`: a stack slot in the
entry block for every parameter, bound in the symbol table. -/
def bindParameters : List String → Nat → Nat → Nat → IRGenerator →
    Except String (Unit × IRGenerator)
  | [], _, _, _, g => .ok ((), g)
  | paramName :: rest, i, fn, entryBlock, g => do
    let paramVal := Value.Param fn i .I32
    let (alloca, g) ← g.NewAlloca (some entryBlock) .I32 (paramName ++ ".addr")
    let (_, g) ← g.NewStore (some entryBlock) paramVal alloca
    bindParameters rest (i + 1) fn entryBlock (g.bindSymbol paramName alloca)

/-- The parameter loop of `generateFunctionLiteral`, which also names the
parameters. -/
def bindLiteralParameters : List String → Nat → Nat → Nat → IRGenerator →
    Except String (Unit × IRGenerator)
  | [], _, _, _, g => .ok ((), g)
  | paramName :: rest, i, fn, entryBlock, g => do
    let g := g.setParamName fn i paramName
    let paramVal := Value.Param fn i .I32
    let (alloca, g) ← g.NewAlloca (some entryBlock) .I32 (paramName ++ ".addr")
    let (_, g) ← g.NewStore (some entryBlock) paramVal alloca
    bindLiteralParameters rest (i + 1) fn entryBlock (g.bindSymbol paramName alloca)

/-- Append the parameters to `fn.Params`. -/
def appendParams (names : List String) (fn : Nat) (g : IRGenerator) : IRGenerator :=
  names.foldl (fun g n => g.appendParam fn ⟨n, .I32⟩) g

/-- The format specifier chosen by `generatePrintfCall` for an argument, and
the argument passed (a boolean is zero-extended to 32 bits first). -/
def printfArgument (argVal : Value) (g : IRGenerator) :
    Except String ((String × Value) × IRGenerator) :=
  if argVal.Type = .I32 || argVal.Type = .I64 then .ok (("%d", argVal), g)
  else if argVal.Type = .Float || argVal.Type = .Double then .ok (("%f", argVal), g)
  else if argVal.Type = .I1 then
    match g.NewZExt g.currentBB argVal .I32 with
    | .error e => .error e
    | .ok (extendedVal, g) => .ok (("%d", extendedVal), g)
  else .ok (("%s", argVal), g)

/-- Report a diagnostic and yield no value. -/
def failWith (g : IRGenerator) (msg : String) : Except String (Option Value × IRGenerator) :=
  .ok (none, g.ReportError msg)

/-- The statement `if g.currentBB.Term == nil { g.currentBB.NewBr(target) }`. -/
def IRGenerator.brIfOpen (g : IRGenerator) (target : Nat) : Except String (Unit × IRGenerator) :=
  match g.TermOf g.currentBB with
  | .error e => .error e
  | .ok none => g.NewBr g.currentBB target
  | .ok (some _) => .ok ((), g)

/-- The test `g.currentBB != nil && g.currentBB.Term != nil`. -/
def IRGenerator.terminated (g : IRGenerator) : Bool :=
  match g.currentBB with
  | some b => (g.blocks b).term.isSome
  | none => false

/-- The part of `generateIndexExpression` after both operands have been
lowered.  A nil element type (a struct whose first field is no pointer) is
rendered as `Void`. -/
def indexAccess (arrayValue indexValue : Value) (g : IRGenerator) :
    Except String (Option Value × IRGenerator) :=
  if !indexValue.Type.IsInt then
    failWith g ("Array index integer olmalıdır, alınan: " ++ indexValue.Type.String)
  else
    match arrayValue.Type with
    | .Pointer (.Array n elementType) => do
      let (_, g) ← generateBoundsCheck indexValue (.ConstInt .I32 n) g
      let (elementPtr, g) ← g.NewGetElementPtr g.currentBB (.Array n elementType) arrayValue
        [.ConstInt .I32 0, indexValue]
      asResult (g.NewLoad g.currentBB elementType elementPtr)
    | .Pointer (.Struct fields) => do
      let elementType : Ty :=
        if fields.length ≥ 2 then
          match fields.get? 0 with
          | some (.Pointer e) => e
          | _ => .Void
        else .Void
      let (arrayLength, g) ←
        if fields.length ≥ 2 then do
          let (lenPtr, g) ← g.NewGetElementPtr g.currentBB (.Struct fields) arrayValue
            [.ConstInt .I32 0, .ConstInt .I32 1]
          let (len, g) ← g.NewLoad g.currentBB .I32 lenPtr
          pure (some len, g)
        else (pure (none, g) : Except String (Option Value × IRGenerator))
      let (_, g) ←
        match arrayLength with
        | some len => generateBoundsCheck indexValue len g
        | none => pure ((), g)
      let (dataPtr, g) ← g.NewGetElementPtr g.currentBB (.Struct fields) arrayValue
        [.ConstInt .I32 0, .ConstInt .I32 0]
      let (dataArray, g) ← g.NewLoad g.currentBB (.Pointer elementType) dataPtr
      let (elementPtr, g) ← g.NewGetElementPtr g.currentBB elementType dataArray [indexValue]
      asResult (g.NewLoad g.currentBB elementType elementPtr)
    | .Pointer elemType => do
      let (elementPtr, g) ← g.NewGetElementPtr g.currentBB elemType arrayValue
        [.ConstInt .I32 0, indexValue]
      asResult (g.NewLoad g.currentBB elemType elementPtr)
    | _ => failWith g "Index expression sadece array/slice'larda kullanılabilir"

/-- The part of `generateLenCall` (`field = 1`, `what = "len"`) and of
`generateCapCall` (`field = 2`, `what = "cap"`) after the argument has been
lowered. -/
def lenOrCap (field : Int) (what : String) (arg : Value) (g : IRGenerator) :
    Except String (Option Value × IRGenerator) :=
  match arg.Type with
  | .Pointer (.Array n _) => .ok (some (.ConstInt .I32 n), g)
  | .Pointer elemType => do
    let (fieldPtr, g) ← g.NewGetElementPtr g.currentBB elemType arg
      [.ConstInt .I32 0, .ConstInt .I32 field]
    asResult (g.NewLoad g.currentBB .I32 fieldPtr)
  | _ => failWith g (what ++ "() fonksiyonu sadece array ve slice'larda kullanılabilir")

/-- Element type of the slice aggregate behind the first argument of
`append` (nil when it cannot be determined). -/
def sliceElementType : Ty → Option Ty
  | .Struct fields =>
    if fields.length ≥ 1 then
      match fields.get? 0 with
      | some (.Pointer e) => some e
      | _ => none
    else none
  | _ => none

/-- One iteration of the element loop of `generateAppendCall`, after the
element has been lowered to `elementVal`. -/
def appendElement (i : Nat) (elementVal currentLen sliceArg : Value) (structType elementType : Ty)
    (g : IRGenerator) : Except String (Unit × IRGenerator) := do
  let (elementIndex, g) ← g.NewBin g.currentBB .Add currentLen (.ConstInt .I32 i)
  let (dataPtr, g) ← g.NewGetElementPtr g.currentBB structType sliceArg
    [.ConstInt .I32 0, .ConstInt .I32 0]
  let (dataArray, g) ← g.NewLoad g.currentBB (.Pointer elementType) dataPtr
  let (elementPtr, g) ← g.NewGetElementPtr g.currentBB elementType dataArray [elementIndex]
  g.NewStore g.currentBB elementVal elementPtr

/-- The part of `generateAppendCall` from reading the length and capacity
fields up to entering the `append` block; returns the length pointer, the
loaded length, the new length and the end block. -/
def appendPrologue (count : Nat) (sliceArg : Value) (structType : Ty) (g : IRGenerator) :
    Except String ((Value × Value × Value × Nat) × IRGenerator) := do
  let (lenPtr, g) ← g.NewGetElementPtr g.currentBB structType sliceArg
    [.ConstInt .I32 0, .ConstInt .I32 1]
  let (currentLen, g) ← g.NewLoad g.currentBB .I32 lenPtr
  let (capPtr, g) ← g.NewGetElementPtr g.currentBB structType sliceArg
    [.ConstInt .I32 0, .ConstInt .I32 2]
  let (currentCap, g) ← g.NewLoad g.currentBB .I32 capPtr
  let appendCount := Value.ConstInt .I32 count
  let (newLen, g) ← g.NewBin g.currentBB .Add currentLen appendCount
  let (needsRealloc, g) ← g.NewICmp g.currentBB .SGT newLen currentCap
  let (reallocBlock, g) ← g.NewBlock g.currentFunc "realloc"
  let (appendBlock, g) ← g.NewBlock g.currentFunc "append"
  let (endBlock, g) ← g.NewBlock g.currentFunc "append_end"
  let (_, g) ← g.NewCondBr g.currentBB needsRealloc reallocBlock appendBlock
  let g := g.setCurrentBB (some reallocBlock)
  let (doubleCap, g) ← g.NewBin g.currentBB .Mul currentCap (.ConstInt .I32 2)
  let (minCap, g) ← g.NewICmp g.currentBB .SLT doubleCap newLen
  let (newCap, g) ← g.NewSelect g.currentBB minCap newLen doubleCap
  let (_, g) ← g.NewStore g.currentBB newCap capPtr
  let (_, g) ← g.NewBr g.currentBB appendBlock
  pure ((lenPtr, currentLen, newLen, endBlock), g.setCurrentBB (some appendBlock))

/-- The last steps of `generateAppendCall`: store the new length and move
to the block `append_end`. -/
def appendEpilogue (lenPtr newLen : Value) (endBlock : Nat) (g : IRGenerator) :
    Except String (Unit × IRGenerator) := do
  let (_, g) ← g.NewStore g.currentBB newLen lenPtr
  let (_, g) ← g.NewBr g.currentBB endBlock
  pure ((), g.setCurrentBB (some endBlock))

/-- The part of `generateMakeCall` that builds the slice aggregate, after the
length and capacity arguments have been lowered (a nil value is passed on
to `NewStore` as it is). -/
def makeSlice (elementType : Ty) (length capacity : Option Value) (g : IRGenerator) :
    Except String (Option Value × IRGenerator) := do
  let sliceStructType := sliceStruct elementType
  let (sliceAlloca, g) ← g.NewAlloca g.currentBB sliceStructType ""
  let dataArrayType := Ty.Array 1024 elementType
  let (dataAlloca, g) ← g.NewAlloca g.currentBB dataArrayType ""
  let (dataPtr, g) ← g.NewGetElementPtr g.currentBB dataArrayType dataAlloca
    [.ConstInt .I32 0, .ConstInt .I32 0]
  let (dataFieldPtr, g) ← g.NewGetElementPtr g.currentBB sliceStructType sliceAlloca
    [.ConstInt .I32 0, .ConstInt .I32 0]
  let (_, g) ← g.NewStore g.currentBB dataPtr dataFieldPtr
  let (lenFieldPtr, g) ← g.NewGetElementPtr g.currentBB sliceStructType sliceAlloca
    [.ConstInt .I32 0, .ConstInt .I32 1]
  let (_, g) ← g.NewStore g.currentBB (length.getD .Nil) lenFieldPtr
  let (capFieldPtr, g) ← g.NewGetElementPtr g.currentBB sliceStructType sliceAlloca
    [.ConstInt .I32 0, .ConstInt .I32 2]
  let (_, g) ← g.NewStore g.currentBB (capacity.getD .Nil) capFieldPtr
  pure (some sliceAlloca, g)

/-- One iteration of the element loop of `generateArrayLiteral`, after the
element has been lowered to `elementValue`. -/
def arrayElement (i : Nat) (elementValue : Value) (elementType arrayType : Ty)
    (arrayAlloca : Value) (g : IRGenerator) : Except String (Unit × IRGenerator) :=
  if elementValue.Type ≠ elementType then
    .ok ((), g.ReportError ("Array element tipi uyumsuz: beklenen " ++ elementType.String ++
      ", alınan " ++ elementValue.Type.String))
  else do
    let (elementPtr, g) ← g.NewGetElementPtr g.currentBB arrayType arrayAlloca
      [.ConstInt .I32 0, .ConstInt .I32 i]
    g.NewStore g.currentBB elementValue elementPtr

/-- The type resolution at the start of `generateVarStatement`: the declared
type, else the type of the initializer; `none` after a diagnostic. -/
def varStatementType (varName : String) (type value : Option Expression) (g : IRGenerator) :
    Option Ty × IRGenerator :=
  match type with
  | some (.Identifier typeName) =>
    match lookup typeName g.typeTable with
    | some t => (some t, g)
    | none => (none, g.ReportError ("Bilinmeyen tip: " ++ typeName))
  | some other => (none, g.ReportError ("Desteklenmeyen tip ifadesi: " ++ other.goType))
  | none =>
    match value with
    | some v =>
      match getExpressionType v g with
      | (some t, g) => (some t, g)
      | (none, g) => (none, g.ReportError ("Değişken tipi belirlenemedi: " ++ varName))
    | none =>
      (none, g.ReportError ("Değişken tipi belirtilmemiş ve değer atanmamış: " ++ varName))

/-- The global branch of `generateVarStatement`. -/
def declareGlobal (varName : String) (varType : Ty) (value : Option Expression)
    (g : IRGenerator) : IRGenerator :=
  let (globalVar, g) := g.NewGlobalDef varName (.ConstZeroInit varType)
  let g := g.bindSymbol varName (.Global globalVar varType)
  match value with
  | some v =>
    match generateConstantExpression v g with
    | (some constVal, g) =>
      g.setGlobalInit globalVar constVal
    | (none, g) => g
  | none => g

/-- The return-type resolution of `generateFunctionStatement` (a diagnostic
leaves the default type in place). -/
def functionReturnType (returnType : Option Expression) (g : IRGenerator) : Ty × IRGenerator :=
  match returnType with
  | some (.Identifier typeName) =>
    match lookup typeName g.typeTable with
    | some t => (t, g)
    | none => (.I32, g.ReportError ("Bilinmeyen tip: " ++ typeName))
  | some other => (.I32, g.ReportError ("Desteklenmeyen tip ifadesi: " ++ other.goType))
  | none => (.I32, g)

/-- The implicit default return at the end of a function body; with debug
metadata enabled the position `stmt.Body.End()` is read first, which fails
on a nil body. -/
def implicitReturn (bodyIsNil : Bool) (g : IRGenerator) : Except String (Unit × IRGenerator) :=
  match g.TermOf g.currentBB with
  | .error e => .error e
  | .ok (some _) => .ok ((), g)
  | .ok none =>
    if g.generateDebug && bodyIsNil then .error nilDeref
    else g.NewRet g.currentBB (.ConstInt .I32 0)

/-- Resolve the callee of a plain call: the bound value, else a lazily
declared external function returning `i32`, bound under that name (and
noted in the ghost log `lazyDeclared`). -/
def resolveCallee (funcName : String) (g : IRGenerator) : Value × IRGenerator :=
  match lookup funcName g.symbolTable with
  | some val => (val, g)
  | none =>
    let (fn, g) := g.NewFunc funcName .I32 []
    (g.funcValue fn, (g.bindSymbol funcName (g.funcValue fn)).noteLazy funcName fn)

/-- The branch of `generatePrintfCall` for an empty argument list:
`Println` prints the empty string with `puts`; `Print` and `Printf` have no
print function. -/
def printfNoArguments (funcName : String) (g : IRGenerator) :
    Except String (Option Value × IRGenerator) :=
  if funcName = "Println" then
    match getOrDeclare "puts" .I32 [⟨"str", .Pointer .I8⟩] false g with
    | (printFunc, g) =>
      match generateStringLiteral "" g with
      | (emptyStr, g) => asResult (g.NewCall g.currentBB (g.funcValue printFunc) [emptyStr])
  else failWith g "Print fonksiyonu oluşturulamadı"

/-- The end of `generatePrintfCall` for a non-empty argument list: build the
format string from the specifiers and call `printf`. -/
def printfCall (funcName : String) (printFunc : Nat) (formatParts : List String)
    (irArgs : List Value) (g : IRGenerator) : Except String (Option Value × IRGenerator) :=
  let formatString :=
    if funcName = "Println" then " ".intercalate formatParts ++ "\n"
    else " ".intercalate formatParts
  match generateStringLiteral formatString g with
  | (formatStr, g) =>
    asResult (g.NewCall g.currentBB (g.funcValue printFunc) (formatStr :: irArgs))

/-! ## Lowering: the recursive methods

The methods `generatePrintfCall`, `generateTaggedSwitch` and
`generateBooleanSwitch` are inlined at their single call site, so that every
recursive call is on a sub-node of the node being lowered. -/

mutual
/-- The method `generateExpression`, with the methods it dispatches to that
lower sub-expressions themselves (`generatePrefixExpression`,
`generateInfixExpression`, `generateCallExpression`,
`generateMemberFunctionCall`, `generateFunctionLiteral`,
`generateIfExpression`, `generateArrayLiteral`, `generateIndexExpression`). -/
def generateExpression : Expression → IRGenerator → Except String (Option Value × IRGenerator)
  | .Identifier name, g => generateIdentifier name g
  | .IntegerLiteral v, g => .ok (some (.ConstInt .I32 v), g)
  | .FloatLiteral b, g => .ok (some (.ConstFloat .Double b), g)
  | .StringLiteral v, g =>
    let (c, g) := generateStringLiteral v g
    .ok (some c, g)
  | .BooleanLiteral v, g => .ok (some (generateBooleanLiteral v), g)
  | .PrefixExpression op right, g => do
    let (right, g) ← generateExpression right g
    match right with
    | none => pure (none, g)
    | some right => prefixOperator op right g
  | .InfixExpression left op right, g =>
    if op = ":=" then
      match left with
      | .Identifier varName =>
        if (lookup varName g.symbolTable).isSome then
          failWith g ("Değişken zaten tanımlı: " ++ varName)
        else do
          let (rv, g) ← generateExpression right g
          match rv with
          | none => pure (none, g)
          | some rv =>
            if g.currentFunc.isNone then
              failWith g "Kısa değişken tanımlama sadece fonksiyon içinde kullanılabilir"
            else if g.currentBB.isNone then
              failWith g "Geçerli bir blok yok, değişken tanımlanamıyor"
            else do
              let (alloca, g) ← g.NewAlloca g.currentBB rv.Type varName
              let g := g.bindSymbol varName alloca
              let (_, g) ← g.NewStore g.currentBB rv alloca
              pure (some rv, g)
      | _ =>
        failWith g "Kısa değişken tanımlama operatörünün sol tarafı bir tanımlayıcı olmalıdır"
    else do
      let (lv, g) ← generateExpression left g
      let (rv, g) ← generateExpression right g
      match lv, rv with
      | some lv, some rv =>
        if g.currentBB.isNone then
          failWith g "Geçerli bir blok yok, araek ifadesi değerlendirilemiyor"
        else if op = "&&" then
          match g.currentFunc with
          | none => failWith g "Geçerli bir fonksiyon yok, mantıksal AND değerlendirilemiyor"
          | some currFunc => do
            let (rightBlock, g) ← g.NewBlock (some currFunc) ""
            let (mergeBlock, g) ← g.NewBlock (some currFunc) ""
            let (_, g) ← g.NewCondBr g.currentBB lv rightBlock mergeBlock
            let g := g.setCurrentBB (some rightBlock)
            let (_, g) ← generateExpression right g
            let (_, g) ← g.NewBr g.currentBB mergeBlock
            pure (some (.ConstInt .I1 0), g.setCurrentBB (some mergeBlock))
        else if op = "||" then
          match g.currentFunc with
          | none => failWith g "Geçerli bir fonksiyon yok, mantıksal OR değerlendirilemiyor"
          | some currFunc => do
            let (rightBlock, g) ← g.NewBlock (some currFunc) ""
            let (mergeBlock, g) ← g.NewBlock (some currFunc) ""
            let (_, g) ← g.NewCondBr g.currentBB lv mergeBlock rightBlock
            let g := g.setCurrentBB (some rightBlock)
            let (_, g) ← generateExpression right g
            let (_, g) ← g.NewBr g.currentBB mergeBlock
            pure (some (.ConstInt .I1 1), g.setCurrentBB (some mergeBlock))
        else infixOperator left op lv rv g
      | _, _ => pure (none, g)
  | .PostfixExpression left op, g => generatePostfixExpression left op g
  | .CallExpression function arguments, g =>
    match function with
    | .Identifier funcName =>
      if funcName = "len" then generateLenCall arguments g
      else if funcName = "cap" then generateCapCall arguments g
      else if funcName = "append" then generateAppendCall arguments g
      else if funcName = "make" then generateMakeCall arguments g
      else
        match resolveCallee funcName g with
        | (fn, g) =>
          if g.currentBB.isNone then
            failWith g "Geçerli bir blok yok, fonksiyon çağrısı yapılamıyor"
          else do
            let (args, g) ← callArguments arguments g
            asResult (g.NewCall g.currentBB fn args)
    | other => failWith g ("Desteklenmeyen fonksiyon çağrısı türü: " ++ other.goType)
  | .MemberCall object member arguments, g =>
    if g.currentBB.isNone then
      failWith g "Geçerli bir blok yok, member function çağrısı yapılamıyor"
    else
      match member with
      | .Identifier memberName =>
        match object with
        | .Identifier objectName =>
          if objectName = "fmt" then
            if memberName = "Println" || memberName = "Print" || memberName = "Printf" then
              if g.currentBB.isNone then
                failWith g "Geçerli bir blok yok, printf çağrısı yapılamıyor"
              else
                match arguments with
                | [] => printfNoArguments memberName g
                | _ :: _ =>
                  match getOrDeclare "printf" .I32 [⟨"format", .Pointer .I8⟩] true g with
                  | (printFunc, g) => do
                    let ((formatParts, irArgs), g) ← printfArguments arguments g
                    printfCall memberName printFunc formatParts irArgs g
            else failWith g ("Desteklenmeyen fmt fonksiyonu: " ++ memberName)
          else if objectName = "os" then
            if memberName = "Exit" then generateExitCall arguments g
            else failWith g ("Desteklenmeyen os fonksiyonu: " ++ memberName)
          else
            match resolveCallee (objectName ++ "_" ++ memberName) g with
            | (fn, g) => do
              let (args, g) ← callArguments arguments g
              asResult (g.NewCall g.currentBB fn args)
        | _ => failWith g "Object adı bir tanımlayıcı olmalıdır"
      | _ => failWith g "Member adı bir tanımlayıcı olmalıdır"
  | .FunctionLiteral parameters body, g => do
    let (fn, g) := g.NewFunc "anonymous_func" .I32 []
    let g := parameters.foldl (fun g _ => g.appendParam fn ⟨"", .I32⟩) g
    let prevFunc := g.currentFunc
    let prevBB := g.currentBB
    let g := g.setCurrentFunc (some fn)
    let (entryBlock, g) ← g.NewBlock (some fn) "entry"
    let g := g.setCurrentBB (some entryBlock)
    let (_, g) ← bindLiteralParameters parameters 0 fn entryBlock g
    let (_, g) ←
      match body with
      | some stmts => generateBlockStatement stmts g
      | none => pure ((), g)
    let (_, g) ← implicitReturn false g
    pure (some (g.funcValue fn), (g.setCurrentFunc prevFunc).setCurrentBB prevBB)
  | .IfExpression condition consequence alternative, g => do
    let (cond, g) ← generateExpression condition g
    match cond with
    | none => pure (none, g)
    | some cond =>
      if g.currentFunc.isNone then
        failWith g "Geçerli bir fonksiyon yok, if ifadesi değerlendirilemiyor"
      else do
        let g := g.nextLabel
        let labelSuffix := toString g.labelCounter
        let (thenBlock, g) ← g.NewBlock g.currentFunc ("if.then." ++ labelSuffix)
        let (elseBlock, g) ← g.NewBlock g.currentFunc ("if.else." ++ labelSuffix)
        let (mergeBlock, g) ← g.NewBlock g.currentFunc ("if.end." ++ labelSuffix)
        let (_, g) ← g.NewCondBr g.currentBB cond thenBlock elseBlock
        let g := g.setCurrentBB (some thenBlock)
        let (_, g) ←
          match consequence with
          | some stmts => do
            let (_, g) ← generateBlockStatement stmts g
            g.brIfOpen mergeBlock
          | none => g.NewBr g.currentBB mergeBlock
        let g := g.setCurrentBB (some elseBlock)
        let (_, g) ←
          match alternative with
          | some stmts => do
            let (_, g) ← generateBlockStatement stmts g
            g.brIfOpen mergeBlock
          | none => g.NewBr g.currentBB mergeBlock
        pure (none, g.setCurrentBB (some mergeBlock))
  | .ArrayLiteral elements, g =>
    if g.currentBB.isNone then
      failWith g "Geçerli bir blok yok, array literal değerlendirilemiyor"
    else
      match elements with
      | [] => .ok (some (.ConstNull (.Pointer .I32)), g)
      | first :: rest => do
        let (firstElement, g) ← generateExpression first g
        match firstElement with
        | none => pure (none, g)
        | some firstElement =>
          let elementType := firstElement.Type
          let arrayType := Ty.Array (rest.length + 1) elementType
          let (arrayAlloca, g) ← g.NewAlloca g.currentBB arrayType ""
          let (_, g) ← arrayElements (first :: rest) 0 elementType arrayType arrayAlloca g
          pure (some arrayAlloca, g)
  | .IndexExpression left index, g =>
    if g.currentBB.isNone then
      failWith g "Geçerli bir blok yok, index expression değerlendirilemiyor"
    else do
      let (arrayValue, g) ← generateExpression left g
      match arrayValue with
      | none => pure (none, g)
      | some arrayValue =>
        let (indexValue, g) ← generateExpression index g
        match indexValue with
        | none => pure (none, g)
        | some indexValue => indexAccess arrayValue indexValue g
  | .NewExpression lowering, g => lowering.run g
  | .MemberExpression lowering, g => lowering.run g
  | .TemplateExpression lowering, g => lowering.run g
  | .TryExpression lowering, g => lowering.run g
  | .ArrayType _ _, g => failWith g "Desteklenmeyen ifade türü: *ast.ArrayType"
  | .Other t, g => failWith g ("Desteklenmeyen ifade türü: " ++ t)
/-- The argument loop of `generateCallExpression` and of the generic member
call: the values of the arguments that lower. -/
def callArguments : List Expression → IRGenerator → Except String (List Value × IRGenerator)
  | [], g => .ok ([], g)
  | arg :: rest, g => do
    let (argVal, g) ← generateExpression arg g
    let (args, g) ← callArguments rest g
    match argVal with
    | some v => pure (v :: args, g)
    | none => pure (args, g)
/-- The method `generateLenCall`. -/
def generateLenCall : List Expression → IRGenerator → Except String (Option Value × IRGenerator)
  | [a], g =>
    if g.currentBB.isNone then failWith g "Geçerli bir blok yok, len() çağrısı yapılamıyor"
    else do
      let (arg, g) ← generateExpression a g
      match arg with
      | none => pure (none, g)
      | some arg => lenOrCap 1 "len" arg g
  | args, g =>
    failWith g ("len() fonksiyonu tam olarak 1 argüman alır, " ++ toString args.length ++ " verildi")
/-- The method `generateCapCall`. -/
def generateCapCall : List Expression → IRGenerator → Except String (Option Value × IRGenerator)
  | [a], g =>
    if g.currentBB.isNone then failWith g "Geçerli bir blok yok, cap() çağrısı yapılamıyor"
    else do
      let (arg, g) ← generateExpression a g
      match arg with
      | none => pure (none, g)
      | some arg => lenOrCap 2 "cap" arg g
  | args, g =>
    failWith g ("cap() fonksiyonu tam olarak 1 argüman alır, " ++ toString args.length ++ " verildi")
/-- The method `generateAppendCall`. -/
def generateAppendCall : List Expression → IRGenerator →
    Except String (Option Value × IRGenerator)
  | a0 :: a1 :: rest, g =>
    if g.currentBB.isNone then failWith g "Geçerli bir blok yok, append() çağrısı yapılamıyor"
    else do
      let (sliceArg, g) ← generateExpression a0 g
      match sliceArg with
      | none => pure (none, g)
      | some sliceArg =>
        match sliceArg.Type with
        | .Pointer structType =>
          match sliceElementType structType with
          | none => failWith g "Slice element tipi belirlenemedi"
          | some elementType => do
            let ((lenPtr, currentLen, newLen, endBlock), g) ←
              appendPrologue (rest.length + 1) sliceArg structType g
            let (_, g) ← appendElements (a1 :: rest) 0 currentLen sliceArg structType elementType g
            let (_, g) ← appendEpilogue lenPtr newLen endBlock g
            pure (some sliceArg, g)
        | _ => failWith g "append() fonksiyonunun ilk argümanı slice olmalıdır"
  | args, g =>
    failWith g ("append() fonksiyonu en az 2 argüman alır, " ++ toString args.length ++ " verildi")
/-- The element loop of `generateAppendCall` (`for i, argExpr := range args[1:]`). -/
def appendElements : List Expression → Nat → Value → Value → Ty → Ty → IRGenerator →
    Except String (Unit × IRGenerator)
  | [], _, _, _, _, _, g => .ok ((), g)
  | argExpr :: rest, i, currentLen, sliceArg, structType, elementType, g => do
    let (elementVal, g) ← generateExpression argExpr g
    match elementVal with
    | none => appendElements rest (i + 1) currentLen sliceArg structType elementType g
    | some elementVal => do
      let (_, g) ← appendElement i elementVal currentLen sliceArg structType elementType g
      appendElements rest (i + 1) currentLen sliceArg structType elementType g
/-- The method `generateMakeCall`. -/
def generateMakeCall : List Expression → IRGenerator → Except String (Option Value × IRGenerator)
  | [], g => failWith g "make() fonksiyonu 1-3 argüman alır, 0 verildi"
  | typeExpr :: rest, g =>
    if rest.length + 1 > 3 then
      failWith g ("make() fonksiyonu 1-3 argüman alır, " ++ toString (rest.length + 1) ++ " verildi")
    else if g.currentBB.isNone then
      failWith g "Geçerli bir blok yok, make() çağrısı yapılamıyor"
    else
      match typeExpr with
      | .ArrayType size elementTypeExpr =>
        if size.isSome then
          failWith g "make() fonksiyonu array tipi ile kullanılamaz, slice tipi kullanın"
        else
          let elementType : Ty :=
            match elementTypeExpr with
            | .Identifier name => (lookup name g.typeTable).getD .I32
            | _ => .I32
          match rest with
          | [] => failWith g "make() slice için length argümanı gerekli"
          | lengthExpr :: rest2 => do
            let (length, g) ← generateExpression lengthExpr g
            let (capacity, g) ←
              match rest2 with
              | capacityExpr :: _ => generateExpression capacityExpr g
              | [] => pure (length, g)
            makeSlice elementType length capacity g
      | other =>
        failWith g ("make() fonksiyonu desteklenmeyen tip ile kullanıldı: " ++ other.goType)
/-- The argument loop of `generatePrintfCall`: format specifiers and values
of the arguments that lower. -/
def printfArguments : List Expression → IRGenerator →
    Except String ((List String × List Value) × IRGenerator)
  | [], g => .ok (([], []), g)
  | arg :: rest, g => do
    let (argVal, g) ← generateExpression arg g
    match argVal with
    | none => printfArguments rest g
    | some argVal => do
      let ((spec, v), g) ← printfArgument argVal g
      let ((specs, vs), g) ← printfArguments rest g
      pure ((spec :: specs, v :: vs), g)
/-- The method `generateExitCall`. -/
def generateExitCall : List Expression → IRGenerator → Except String (Option Value × IRGenerator)
  | [], g =>
    if g.currentBB.isNone then failWith g "Geçerli bir blok yok, exit çağrısı yapılamıyor"
    else
      match g.NewFunc "exit" .Void [⟨"status", .I32⟩] with
      | (exitFunc, g) => asResult (g.NewCall g.currentBB (g.funcValue exitFunc) [.ConstInt .I32 0])
  | arg :: _, g =>
    if g.currentBB.isNone then failWith g "Geçerli bir blok yok, exit çağrısı yapılamıyor"
    else
      match g.NewFunc "exit" .Void [⟨"status", .I32⟩] with
      | (exitFunc, g) => do
        let (exitCode, g) ← generateExpression arg g
        asResult (g.NewCall g.currentBB (g.funcValue exitFunc) [exitCode.getD .Nil])
/-- The element loop of `generateArrayLiteral`. -/
def arrayElements : List Expression → Nat → Ty → Ty → Value → IRGenerator →
    Except String (Unit × IRGenerator)
  | [], _, _, _, _, g => .ok ((), g)
  | element :: rest, i, elementType, arrayType, arrayAlloca, g => do
    let (elementValue, g) ← generateExpression element g
    match elementValue with
    | none => arrayElements rest (i + 1) elementType arrayType arrayAlloca g
    | some elementValue => do
      let (_, g) ← arrayElement i elementValue elementType arrayType arrayAlloca g
      arrayElements rest (i + 1) elementType arrayType arrayAlloca g
/-- The method `generateStatement`, with the statement methods
(`generateVarStatement`, `generateReturnStatement`, `generateWhileStatement`,
`generateForStatement`, `generateSwitchStatement`,
`generateFunctionStatement`). -/
def generateStatement : Statement → IRGenerator → Except String (Unit × IRGenerator)
  | .PackageStatement name, g => .ok ((), g.setModuleName name)
  | .ImportStatement, g => .ok ((), g)
  | .ExpressionStatement e, g => do
    let (_, g) ← generateExpression e g
    pure ((), g)
  | .VarStatement varName type value, g =>
    match varStatementType varName type value g with
    | (none, g) => .ok ((), g)
    | (some varType, g) =>
      if g.currentFunc.isNone then .ok ((), declareGlobal varName varType value g)
      else if g.currentBB.isNone then
        .ok ((), g.ReportError ("Geçerli bir blok yok, değişken tanımlanamıyor: " ++ varName))
      else do
        let (alloca, g) ← g.NewAlloca g.currentBB varType varName
        let g := g.bindSymbol varName alloca
        match value with
        | none => pure ((), g)
        | some v => do
          let (val, g) ← generateExpression v g
          match val with
          | some val => g.NewStore g.currentBB val alloca
          | none => pure ((), g)
  | .ReturnStatement returnValue, g =>
    if g.currentFunc.isNone then
      .ok ((), g.ReportError "Fonksiyon dışında dönüş deyimi kullanılamaz")
    else if g.currentBB.isNone then
      .ok ((), g.ReportError "Geçerli bir blok yok, dönüş deyimi değerlendirilemiyor")
    else
      match returnValue with
      | some e => do
        let (retVal, g) ← generateExpression e g
        match retVal with
        | some retVal => g.NewRet g.currentBB retVal
        | none => g.NewRet g.currentBB (.ConstInt .I32 0)
      | none => g.NewRet g.currentBB (.ConstInt .I32 0)
  | .BlockStatement statements, g => generateBlockStatement statements g
  | .WhileStatement condition body, g =>
    if g.currentFunc.isNone then
      .ok ((), g.ReportError "Geçerli bir fonksiyon yok, while döngüsü değerlendirilemiyor")
    else do
      let (condBlock, g) ← g.NewBlock g.currentFunc "while.cond"
      let (bodyBlock, g) ← g.NewBlock g.currentFunc "while.body"
      let (endBlock, g) ← g.NewBlock g.currentFunc "while.end"
      let (_, g) ← g.NewBr g.currentBB condBlock
      let g := g.setCurrentBB (some condBlock)
      let (cond, g) ← generateExpression condition g
      match cond with
      | none => pure ((), g)
      | some cond => do
        let (_, g) ← g.NewCondBr g.currentBB cond bodyBlock endBlock
        let g := g.setCurrentBB (some bodyBlock)
        let (_, g) ←
          match body with
          | some stmts => generateBlockStatement stmts g
          | none => pure ((), g)
        let (_, g) ← g.brIfOpen condBlock
        pure ((), g.setCurrentBB (some endBlock))
  | .ForStatement init condition post body, g =>
    if g.currentFunc.isNone then
      .ok ((), g.ReportError "Geçerli bir fonksiyon yok, for döngüsü değerlendirilemiyor")
    else do
      let g := g.nextLabel
      let labelSuffix := toString g.labelCounter
      let (initBlock, g) ← g.NewBlock g.currentFunc ("for.init." ++ labelSuffix)
      let (condBlock, g) ← g.NewBlock g.currentFunc ("for.cond." ++ labelSuffix)
      let (bodyBlock, g) ← g.NewBlock g.currentFunc ("for.body." ++ labelSuffix)
      let (postBlock, g) ← g.NewBlock g.currentFunc ("for.post." ++ labelSuffix)
      let (endBlock, g) ← g.NewBlock g.currentFunc ("for.end." ++ labelSuffix)
      let (_, g) ← g.NewBr g.currentBB initBlock
      let g := g.setCurrentBB (some initBlock)
      let (_, g) ←
        match init with
        | some s => generateStatement s g
        | none => pure ((), g)
      let (_, g) ← g.NewBr g.currentBB condBlock
      let g := g.setCurrentBB (some condBlock)
      let (continues, g) ←
        match condition with
        | some c => do
          let (cond, g) ← generateExpression c g
          match cond with
          | none => pure (false, g)
          | some cond => do
            let (_, g) ← g.NewCondBr g.currentBB cond bodyBlock endBlock
            pure (true, g)
        | none => do
          let (_, g) ← g.NewBr g.currentBB bodyBlock
          pure (true, g)
      if continues then do
        let g := g.setCurrentBB (some bodyBlock)
        let (_, g) ←
          match body with
          | some stmts => generateBlockStatement stmts g
          | none => pure ((), g)
        let (_, g) ← g.brIfOpen postBlock
        let g := g.setCurrentBB (some postBlock)
        let (_, g) ←
          match post with
          | some s => generateStatement s g
          | none => pure ((), g)
        let (_, g) ← g.brIfOpen condBlock
        pure ((), g.setCurrentBB (some endBlock))
      else pure ((), g)
  | .SwitchStatement tag cases, g =>
    if g.currentFunc.isNone then
      .ok ((), g.ReportError "Geçerli bir fonksiyon yok, switch ifadesi değerlendirilemiyor")
    else do
      let g := g.nextLabel
      let labelSuffix := toString g.labelCounter
      let (proceed, switchValue, g) ←
        match tag with
        | some t => do
          let (v, g) ← generateExpression t g
          pure (v.isSome, v, g)
        | none => (pure (true, none, g) : Except String (Bool × Option Value × IRGenerator))
      if proceed then do
        let (endBlock, g) ← g.NewBlock g.currentFunc ("switch.end." ++ labelSuffix)
        let ((caseBlocks, defaultBlock), g) ← newCaseBlocks cases 0 labelSuffix none g
        let defaultBlock := defaultBlock.getD endBlock
        let currentBlock := g.currentBB
        let (currentBlock, g) ←
          match switchValue with
          | some sv => taggedSwitchCases cases 0 sv caseBlocks currentBlock g
          | none => booleanSwitchCases cases 0 caseBlocks currentBlock g
        let (_, g) ← g.NewBr currentBlock defaultBlock
        let (_, g) ← switchBodies cases 0 caseBlocks endBlock g
        pure ((), g.setCurrentBB (some endBlock))
      else pure ((), g)
  | .FunctionStatement funcName parameters returnType body, g =>
    match functionReturnType returnType g with
    | (retTy, g) => do
      let (fn, g) := g.NewFunc funcName retTy []
      let g := appendParams parameters fn g
      let prevFunc := g.currentFunc
      let prevBB := g.currentBB
      let g := g.setCurrentFunc (some fn)
      let (entryBlock, g) ← g.NewBlock (some fn) "entry"
      let g := g.setCurrentBB (some entryBlock)
      let (_, g) ← bindParameters parameters 0 fn entryBlock g
      let (_, g) ←
        match body with
        | some stmts => generateBlockStatement stmts g
        | none => pure ((), g)
      let (_, g) ← implicitReturn body.isNone g
      let g := (g.setCurrentFunc prevFunc).setCurrentBB prevBB
      pure ((), g.bindSymbol funcName (g.funcValue fn))
  | .ClassStatement lowering, g => lowering.run g
  | .TemplateStatement lowering, g => lowering.run g
  | .TryCatchStatement lowering, g => lowering.run g
  | .ThrowStatement lowering, g => lowering.run g
  | .Other t, g => .ok ((), g.ReportError ("Desteklenmeyen deyim türü: " ++ t))
/-- The method `generateBlockStatement` (on the statements of the block). -/
def generateBlockStatement : List Statement → IRGenerator → Except String (Unit × IRGenerator)
  | [], g => .ok ((), g)
  | s :: rest, g => do
    let (_, g) ← generateStatement s g
    if g.terminated then pure ((), g) else generateBlockStatement rest g
/-- The comparison loop of `generateTaggedSwitch` over the clauses. -/
def taggedSwitchCases : List CaseClause → Nat → Value → List Nat → Option Nat → IRGenerator →
    Except String (Option Nat × IRGenerator)
  | [], _, _, _, currentBlock, g => .ok (currentBlock, g)
  | .mk isDefault values _ :: rest, i, switchValue, caseBlocks, currentBlock, g =>
    if isDefault then taggedSwitchCases rest (i + 1) switchValue caseBlocks currentBlock g
    else do
      let (currentBlock, g) ← taggedSwitchValues values i switchValue caseBlocks currentBlock g
      taggedSwitchCases rest (i + 1) switchValue caseBlocks currentBlock g
/-- The comparison loop of `generateTaggedSwitch` over the values of clause
`i`. -/
def taggedSwitchValues : List Expression → Nat → Value → List Nat → Option Nat → IRGenerator →
    Except String (Option Nat × IRGenerator)
  | [], _, _, _, currentBlock, g => .ok (currentBlock, g)
  | caseValue :: rest, i, switchValue, caseBlocks, currentBlock, g => do
    let (val, g) ← generateExpression caseValue g
    match val with
    | none => taggedSwitchValues rest i switchValue caseBlocks currentBlock g
    | some val => do
      let (cmp, g) ← g.NewICmp currentBlock .EQ switchValue val
      let (nextBlock, g) ← g.NewBlock g.currentFunc ("switch.next." ++ toString i)
      let (_, g) ← g.NewCondBr currentBlock cmp (caseBlocks.getD i 0) nextBlock
      taggedSwitchValues rest i switchValue caseBlocks (some nextBlock) g
/-- The condition loop of `generateBooleanSwitch` over the clauses. -/
def booleanSwitchCases : List CaseClause → Nat → List Nat → Option Nat → IRGenerator →
    Except String (Option Nat × IRGenerator)
  | [], _, _, currentBlock, g => .ok (currentBlock, g)
  | .mk isDefault values _ :: rest, i, caseBlocks, currentBlock, g =>
    if isDefault then booleanSwitchCases rest (i + 1) caseBlocks currentBlock g
    else do
      let (condition, g) ← booleanSwitchValues values 0 none currentBlock g
      match condition with
      | some condition => do
        let (nextBlock, g) ← g.NewBlock g.currentFunc ("switch.next." ++ toString i)
        let (_, g) ← g.NewCondBr currentBlock condition (caseBlocks.getD i 0) nextBlock
        booleanSwitchCases rest (i + 1) caseBlocks (some nextBlock) g
      | none => booleanSwitchCases rest (i + 1) caseBlocks currentBlock g
/-- The loop of `generateBooleanSwitch` that ORs the conditions of one
clause (`j` is the index of the value, `condition` the value so far). -/
def booleanSwitchValues : List Expression → Nat → Option Value → Option Nat → IRGenerator →
    Except String (Option Value × IRGenerator)
  | [], _, condition, _, g => .ok (condition, g)
  | caseValue :: rest, j, condition, currentBlock, g => do
    let (val, g) ← generateExpression caseValue g
    match val with
    | none => booleanSwitchValues rest (j + 1) condition currentBlock g
    | some val =>
      if j = 0 then booleanSwitchValues rest (j + 1) (some val) currentBlock g
      else do
        let (c, g) ← g.NewBin currentBlock .Or (condition.getD .Nil) val
        booleanSwitchValues rest (j + 1) (some c) currentBlock g
/-- The loop of both switch methods that lowers the clause bodies. -/
def switchBodies : List CaseClause → Nat → List Nat → Nat → IRGenerator →
    Except String (Unit × IRGenerator)
  | [], _, _, _, g => .ok ((), g)
  | .mk _ _ body :: rest, i, caseBlocks, endBlock, g => do
    let g := g.setCurrentBB (some (caseBlocks.getD i 0))
    let (_, g) ← caseBody body g
    let (_, g) ← g.brIfOpen endBlock
    switchBodies rest (i + 1) caseBlocks endBlock g
/-- The statement loop of a clause body, which stops once the current block
is terminated (`if g.currentBB.Term != nil { break }`). -/
def caseBody : List Statement → IRGenerator → Except String (Unit × IRGenerator)
  | [], g => .ok ((), g)
  | s :: rest, g => do
    let (_, g) ← generateStatement s g
    match g.TermOf g.currentBB with
    | .error e => .error e
    | .ok (some _) => pure ((), g)
    | .ok none => caseBody rest g
end

/-- The statement loop of `GenerateProgram`. -/
def generateStatements : List Statement → IRGenerator → Except String (Unit × IRGenerator)
  | [], g => .ok ((), g)
  | s :: rest, g =>
    match generateStatement s g with
    | .error e => .error e
    | .ok (_, g) => generateStatements rest g

/-- The blocks of function `f`, in order. -/
def IRGenerator.blocksOf (g : IRGenerator) (f : Nat) : List Block :=
  (g.funcs f).blocks.map g.blocks

/-- The blocks without a terminator among the blocks of the functions of
module `m`. -/
def openBlocks (g : IRGenerator) (m : Module) : List Block :=
  (m.funcs.map fun f => (g.blocksOf f).filter fun b => b.term.isNone).flatten

/-- The method `module.String()` of the llir library, as far as it can fail
on a block: the printer walks the functions of the module and the blocks of
each and panics at the first block that has no terminator.  The text itself
is not rendered; the module stands for it. -/
def IRGenerator.moduleString (g : IRGenerator) : Except String Module :=
  match (openBlocks g g.module).head? with
  | some b => .error ("missing terminator in basic block " ++ b.name)
  | none => .ok g.module

/-- The method `GenerateProgram`.  The output is the module that
`g.module.String()` prints (`none` stands for the empty string returned
together with an error). -/
def GenerateProgram (program : Program) (g : IRGenerator) :
    Except String (Option Module × IRGenerator) :=
  let g := g.resetModule
  let g := defineBasicTypes g
  if g.errors.length > 0 then .ok (none, g)
  else
    match generateStatements program g with
    | .error e => .error e
    | .ok (_, g) =>
      match (if (g.getFunction "main").isNone then createMainFunction g else .ok ((), g)) with
      | .error e => .error e
      | .ok (_, g) =>
        if g.errors.length > 0 then .ok (none, g)
        else g.moduleString.map fun m => (some m, g)

/-! ## Reference semantics of straight-line IR

The meaning of the emitted instructions, as LLVM defines it, for the
instructions whose effect the properties below talk about: integer
arithmetic is two's complement at the width of the operand type, memory is
addressed by a base object and a path of indices. -/

/-- The object a pointer points into. -/
inductive Base where
  | stack (id : Nat)
  | global (id : Nat)
  | param (fn idx : Nat)
  deriving DecidableEq, Repr

/-- Run-time values. -/
inductive RVal where
  | int (n : Int)
  | ptr (base : Base) (path : List Int)
  | unknown
  deriving DecidableEq, Repr

/-- Machine state: the results of the executed instructions and the memory
cells (most recent binding first). -/
structure Machine where
  regs : List (Nat × RVal)
  mem : List ((Base × List Int) × RVal)
  deriving DecidableEq, Repr

/-- The signed representative of `n` modulo `2^bits`. -/
def wrap (bits : Nat) (n : Int) : Int :=
  (n + 2 ^ (bits - 1)) % 2 ^ bits - 2 ^ (bits - 1)

/-- Result of instruction `id`. -/
def Machine.reg (m : Machine) (id : Nat) : RVal :=
  match m.regs.find? (fun e => e.1 = id) with
  | some e => e.2
  | none => .unknown

/-- Content of a memory cell. -/
def Machine.load (m : Machine) (base : Base) (path : List Int) : RVal :=
  match m.mem.find? (fun e => e.1 = (base, path)) with
  | some e => e.2
  | none => .unknown

/-- Bind the result of instruction `id`. -/
def Machine.setReg (m : Machine) (id : Nat) (v : RVal) : Machine :=
  { m with regs := (id, v) :: m.regs }

/-- Write a memory cell. -/
def Machine.store (m : Machine) (base : Base) (path : List Int) (v : RVal) : Machine :=
  { m with mem := ((base, path), v) :: m.mem }

/-- Value of an operand. -/
def Machine.eval (m : Machine) : Value → RVal
  | .ConstInt t x => .int (wrap t.bits x)
  | .Inst id _ => m.reg id
  | .Global id _ => .ptr (.global id) []
  | .ConstGEP00 _ id => .ptr (.global id) [0]
  | _ => .unknown

/-- The integer and bitwise binary instructions at width `bits`. -/
def evalBin (op : BinOp) (bits : Nat) : RVal → RVal → RVal
  | .int a, .int b =>
    match op with
    | .Add => .int (wrap bits (a + b))
    | .Sub => .int (wrap bits (a - b))
    | .Mul => .int (wrap bits (a * b))
    | .SDiv => if b = 0 then .unknown else .int (wrap bits (Int.tdiv a b))
    | .Or => .int (if a ≠ 0 ∨ b ≠ 0 then 1 else 0)
    | .Xor => .int (if (a ≠ 0) ≠ (b ≠ 0) then 1 else 0)
    | _ => .unknown
  | _, _ => .unknown

/-- The signed integer comparisons. -/
def evalICmp (pred : IPred) : RVal → RVal → RVal
  | .int a, .int b =>
    let r : Bool :=
      match pred with
      | .EQ => a = b
      | .NE => a ≠ b
      | .SLT => a < b
      | .SGT => a > b
      | .SLE => a ≤ b
      | .SGE => a ≥ b
    .int (if r then 1 else 0)
  | _, _ => .unknown

/-- The integers of a list of run-time values (none if one is no integer). -/
def intsOf : List RVal → Option (List Int)
  | [] => some []
  | .int k :: rest => (intsOf rest).map (k :: ·)
  | _ :: _ => none

/-- Move a path by `i` within the enclosing object. -/
def shiftPath (path : List Int) (i : Int) : List Int :=
  if i = 0 then path
  else
    match path.reverse with
    | [] => [i]
    | last :: front => front.reverse ++ [last + i]

/-- Address computed by `getelementptr`: the first index moves within the
enclosing object, the others descend into it. -/
def gepPath (path : List Int) : List RVal → Option (List Int)
  | [] => some path
  | .int i :: rest => (intsOf rest).map (shiftPath path i ++ ·)
  | _ :: _ => none

/-- Execute one instruction. -/
def Machine.exec (m : Machine) : Inst → Machine
  | .Alloca id _ _ => m.setReg id (.ptr (.stack id) [])
  | .Load id _ src =>
    match m.eval src with
    | .ptr b p => m.setReg id (m.load b p)
    | _ => m.setReg id .unknown
  | .Store src dst =>
    match m.eval dst with
    | .ptr b p => m.store b p (m.eval src)
    | _ => m
  | .Bin id op x y => m.setReg id (evalBin op x.Type.bits (m.eval x) (m.eval y))
  | .ICmp id pred x y => m.setReg id (evalICmp pred (m.eval x) (m.eval y))
  | .FCmp id _ _ _ => m.setReg id .unknown
  | .GetElementPtr id _ src indices =>
    match m.eval src with
    | .ptr b p =>
      match gepPath p (indices.map m.eval) with
      | some path => m.setReg id (.ptr b path)
      | none => m.setReg id .unknown
    | _ => m.setReg id .unknown
  | .Call id _ _ => m.setReg id .unknown
  | .ZExt id src _ =>
    match m.eval src with
    | .int a => m.setReg id (.int (a % 2 ^ src.Type.bits))
    | _ => m.setReg id .unknown
  | .Select id cond x y =>
    match m.eval cond with
    | .int c => m.setReg id (if c ≠ 0 then m.eval x else m.eval y)
    | _ => m.setReg id .unknown

/-- Execute a sequence of instructions. -/
def Machine.run (m : Machine) (insts : List Inst) : Machine :=
  insts.foldl Machine.exec m

/-! ## Observations on a generated module -/

/-- Run `GenerateProgram` on a fresh generator; the module and the final
generator state when it returns the module with a nil error. -/
def compile (p : Program) : Option (Module × IRGenerator) :=
  match GenerateProgram p New with
  | .ok (some m, g) => some (m, g)
  | _ => none

/-- The panic message of a run that panics. -/
def panicOf {α : Type} : Except String α → Option String
  | .error e => some e
  | .ok _ => none

/-- The first function of module `m` named `name`. -/
def funcNamed (g : IRGenerator) (m : Module) (name : String) : Option Nat :=
  m.funcs.find? fun f => (g.funcs f).name = name

/-- The block names of the function of module `m` named `name`. -/
def blockNames (g : IRGenerator) (m : Module) (name : String) : List String :=
  match funcNamed g m name with
  | some f => (g.blocksOf f).map (·.name)
  | none => []

/-! ## Example programs -/

/-- The program `func f() { a := [1, 2, 3]; switch 1 { case a[0]: } }`. -/
def switchOnIndexProgram : Program :=
  [.FunctionStatement "f" [] none (some [
    .ExpressionStatement (.InfixExpression (.Identifier "a") ":="
      (.ArrayLiteral [.IntegerLiteral 1, .IntegerLiteral 2, .IntegerLiteral 3])),
    .SwitchStatement (some (.IntegerLiteral 1))
      [.mk false [.IndexExpression (.Identifier "a") (.IntegerLiteral 0)] []]])]

/-- The program `func f(x, a, b) { switch x { case a: case b: } }`. -/
def switchOnVariablesProgram : Program :=
  [.FunctionStatement "f" ["x", "a", "b"] none (some [
    .SwitchStatement (some (.Identifier "x"))
      [.mk false [.Identifier "a"] [], .mk false [.Identifier "b"] []]])]

/-- The program `func f() { while false { } while false { } }`. -/
def twoWhileProgram : Program :=
  [.FunctionStatement "f" [] none (some [
    .WhileStatement (.BooleanLiteral false) (some []),
    .WhileStatement (.BooleanLiteral false) (some [])])]

/-- The program `func g() { false && f() }`. -/
def shortCircuitProgram : Program :=
  [.FunctionStatement "g" [] none (some [
    .ExpressionStatement (.InfixExpression (.BooleanLiteral false) "&&"
      (.CallExpression (.Identifier "f") []))])]

/-- The three instructions of a postfix update of the storage `addr`: load,
add or subtract 1, store back (`n` is the identity of the load). -/
def postfixCode (n : Nat) (op : BinOp) (addr : Value) : List Inst :=
  [.Load n .I32 addr, .Bin (n + 1) op (.Inst n .I32) (.ConstInt .I32 1),
    .Store (.Inst (n + 1) .I32) addr]

/-- A generator inside a function whose open entry block holds the stack
slot of the 32-bit variable `x`. -/
def postfixState : IRGenerator :=
  { New with
    currentFunc := some 0
    currentBB := some 0
    symbolTable := [("x", .Inst 0 (.Pointer .I32))]
    funcs := update New.funcs 0 ⟨"f", .Func .I32 .nil false, [], [0]⟩
    nfuncs := 1
    blocks := update New.blocks 0 ⟨"entry", [.Alloca 0 .I32 "x"], none⟩
    nblocks := 1
    nextId := 1 }

/-- A machine in which the slot of `x` holds 5. -/
def postfixMachine : Machine :=
  { regs := [(0, .ptr (.stack 0) [])], mem := [((.stack 0, []), .int 5)] }

/-- The three instructions of the bounds check of `generateBoundsCheck`:
`index <s 0`, `index >=s length`, and their disjunction (`n` is the identity
of the first one). -/
def boundsCheckCode (n : Nat) (index length : Value) : List Inst :=
  [.ICmp n .SLT index (.ConstInt .I32 0), .ICmp (n + 1) .SGE index length,
    .Bin (n + 2) .Or (.Inst n .I1) (.Inst (n + 1) .I1)]

/-- The message constant of the bounds-check panic (NUL-terminated). -/
def boundsPanicMessage : Value :=
  .ConstCharArray ("runtime error: index out of range".push (Char.ofNat 0))

/-- The two instructions of an element access on a fixed array: element
address and load (`n` is the identity of the address computation). -/
def indexCode (n N : Nat) (et : Ty) (arr idx : Value) : List Inst :=
  [.GetElementPtr n (.Array N et) arr [.ConstInt .I32 0, idx],
    .Load (n + 1) et (.Inst n (.Pointer et))]

/-- A generator inside a function with an open, empty entry block. -/
def indexState : IRGenerator :=
  { New with
    currentFunc := some 0
    currentBB := some 0
    funcs := update New.funcs 0 ⟨"f", .Func .I32 .nil false, [], [0]⟩
    nfuncs := 1
    blocks := update New.blocks 0 ⟨"entry", [], none⟩
    nblocks := 1 }

/-- The array literal `[1, 2, 3]`. -/
def arrayOperand : Expression :=
  .ArrayLiteral [.IntegerLiteral 1, .IntegerLiteral 2, .IntegerLiteral 3]

/-- The generator after lowering `[1, 2, 3]` in `indexState`. -/
def arrayOperandState : IRGenerator :=
  match generateExpression arrayOperand indexState with
  | .ok (_, g) => g
  | .error _ => indexState

/-- The element type resolved by `generateMakeCall` from the element type
expression of the slice type. -/
def makeElementType (elementTypeExpr : Expression) (g : IRGenerator) : Ty :=
  match elementTypeExpr with
  | .Identifier name => (lookup name g.typeTable).getD .I32
  | _ => .I32

/-- The nine instructions emitted by `generateMakeCall` for a slice: the two
stack objects, the store of the data pointer, and the stores of `length`
and `capacity` into the fields 1 and 2 (`n` is the identity of the slice
aggregate). -/
def makeCode (n : Nat) (et : Ty) (length capacity : Value) : List Inst :=
  [.Alloca n (sliceStruct et) "",
    .Alloca (n + 1) (.Array 1024 et) "",
    .GetElementPtr (n + 2) (.Array 1024 et) (.Inst (n + 1) (.Pointer (.Array 1024 et)))
      [.ConstInt .I32 0, .ConstInt .I32 0],
    .GetElementPtr (n + 3) (sliceStruct et) (.Inst n (.Pointer (sliceStruct et)))
      [.ConstInt .I32 0, .ConstInt .I32 0],
    .Store (.Inst (n + 2) (.Pointer et)) (.Inst (n + 3) (.Pointer (.Pointer et))),
    .GetElementPtr (n + 4) (sliceStruct et) (.Inst n (.Pointer (sliceStruct et)))
      [.ConstInt .I32 0, .ConstInt .I32 1],
    .Store length (.Inst (n + 4) (.Pointer .I32)),
    .GetElementPtr (n + 5) (sliceStruct et) (.Inst n (.Pointer (sliceStruct et)))
      [.ConstInt .I32 0, .ConstInt .I32 2],
    .Store capacity (.Inst (n + 5) (.Pointer .I32))]

/-- The call `make([]T, n)` or `make([]T, n, c)` with integer literals. -/
def makeCall (T : Expression) (n : Int) (c : Option Int) : Expression :=
  .CallExpression (.Identifier "make")
    (.ArrayType none T :: .IntegerLiteral n :: (c.map Expression.IntegerLiteral).toList)

/-- The program `func f() { make([]int, 5, 3) }`. -/
def makeProgram : Program :=
  [.FunctionStatement "f" [] none (some [
    .ExpressionStatement (makeCall (.Identifier "int") 5 (some 3))])]

/-- Type of the address of field `i` of an aggregate of type `st`. -/
def fieldPtr (st : Ty) (i : Int) : Ty :=
  .Pointer (gepElem st [.ConstInt .I32 i])

/-- The six instructions `generateAppendCall` emits into the current block:
load the length and the capacity, add the number of appended elements,
compare the new length with the capacity (`n` is the identity of the first
instruction). -/
def appendHead (n : Nat) (st : Ty) (sliceArg : Value) (count : Nat) : List Inst :=
  [.GetElementPtr n st sliceArg [.ConstInt .I32 0, .ConstInt .I32 1],
    .Load (n + 1) .I32 (.Inst n (fieldPtr st 1)),
    .GetElementPtr (n + 2) st sliceArg [.ConstInt .I32 0, .ConstInt .I32 2],
    .Load (n + 3) .I32 (.Inst (n + 2) (fieldPtr st 2)),
    .Bin (n + 4) .Add (.Inst (n + 1) .I32) (.ConstInt .I32 count),
    .ICmp (n + 5) .SGT (.Inst (n + 4) .I32) (.Inst (n + 3) .I32)]

/-- The four instructions of the block `realloc`: double the capacity, take
the new length when the double is smaller, store the result into the
capacity field. -/
def appendGrow (n : Nat) (st : Ty) : List Inst :=
  [.Bin (n + 6) .Mul (.Inst (n + 3) .I32) (.ConstInt .I32 2),
    .ICmp (n + 7) .SLT (.Inst (n + 6) .I32) (.Inst (n + 4) .I32),
    .Select (n + 8) (.Inst (n + 7) .I1) (.Inst (n + 4) .I32) (.Inst (n + 6) .I32),
    .Store (.Inst (n + 8) .I32) (.Inst (n + 2) (fieldPtr st 2))]

/-- The store of the new length into the length field at the end of
`generateAppendCall`. -/
def appendStoreLen (n : Nat) (st : Ty) : Inst :=
  .Store (.Inst (n + 4) .I32) (.Inst n (fieldPtr st 1))

/-- The generator after a lowering step (the generator before it when the
step panics). -/
def stateAfter {α : Type} (r : Except String (α × IRGenerator)) (g : IRGenerator) :
    IRGenerator :=
  match r with
  | .ok (_, g') => g'
  | .error _ => g

/-- The slice operand `make([]int, 2, 2)`. -/
def sliceOperand : Expression := makeCall (.Identifier "int") 2 (some 2)

/-- The generator after lowering `make([]int, 2, 2)` in `indexState`. -/
def sliceState : IRGenerator :=
  stateAfter (generateExpression sliceOperand indexState) indexState

/-- The value of `make([]int, 2, 2)` lowered in `indexState`. -/
def sliceValue : Value := .Inst 0 (.Pointer (sliceStruct .I32))

/-- The generator after the prologue of `append(make([]int, 2, 2), 7)`. -/
def sliceHeadState : IRGenerator :=
  stateAfter (appendPrologue 1 sliceValue (sliceStruct .I32) sliceState) sliceState

/-- The generator after the element loop of `append(make([]int, 2, 2), 7)`. -/
def sliceElementsState : IRGenerator :=
  stateAfter (appendElements [.IntegerLiteral 7] 0 (.Inst 7 .I32) sliceValue
    (sliceStruct .I32) .I32 sliceHeadState) sliceHeadState

/-- The machine after the code of `make([]int, 2, 2)`. -/
def sliceMachine : Machine :=
  (Machine.mk [] []).run (sliceState.blocks 0).insts

/-- The slice operand `make([]int, 2147483647, 2147483647)`. -/
def fullSliceOperand : Expression := makeCall (.Identifier "int") 2147483647 (some 2147483647)

/-- The generator after lowering `fullSliceOperand` in `indexState`. -/
def fullSliceState : IRGenerator :=
  stateAfter (generateExpression fullSliceOperand indexState) indexState

/-- The generator after the prologue of `append(fullSliceOperand, 7)`. -/
def fullSliceHeadState : IRGenerator :=
  stateAfter (appendPrologue 1 sliceValue (sliceStruct .I32) fullSliceState) fullSliceState

/-- The generator after the element loop of `append(fullSliceOperand, 7)`. -/
def fullSliceElementsState : IRGenerator :=
  stateAfter (appendElements [.IntegerLiteral 7] 0 (.Inst 7 .I32) sliceValue
    (sliceStruct .I32) .I32 fullSliceHeadState) fullSliceHeadState

/-- The machine after the code of `fullSliceOperand`. -/
def fullSliceMachine : Machine :=
  (Machine.mk [] []).run (fullSliceState.blocks 0).insts

/-- A case clause whose values are the integer literals `values`. -/
def literalClause (c : Bool × List Int × List Statement) : CaseClause :=
  .mk c.1 (c.2.1.map Expression.IntegerLiteral) c.2.2

/-- The comparisons of a tagged switch in the order the chain makes them:
clause index and value, for the clauses that are not a default. -/
def comparisons : List (Bool × List Int) → Nat → List (Nat × Int)
  | [], _ => []
  | (isDefault, values) :: rest, i =>
    (if isDefault then [] else values.map fun v => (i, v)) ++ comparisons rest (i + 1)

/-- The index of the first clause, counting from `i`, that is not a default
and lists the value `t`. -/
def firstMatch (t : Int) : List (Bool × List Int) → Nat → Option Nat
  | [], _ => none
  | (isDefault, values) :: rest, i =>
    if !isDefault ∧ t ∈ values then some i else firstMatch t rest (i + 1)

/-- One step along a comparison chain from block `cur`: an unconditional
branch is followed; a conditional branch whose block ends in the equality
comparison of two constants is followed along its true edge exactly when the
constants are equal. -/
def chainStep (blocks : Nat → Block) (cur : Nat) : Option Nat :=
  match (blocks cur).term with
  | some (.Br d) => some d
  | some (.CondBr (.Inst id _) t f) =>
    match (blocks cur).insts.getLast? with
    | some (.ICmp id' .EQ (.ConstInt _ x) (.ConstInt _ y)) =>
      if id' = id then some (if x = y then t else f) else none
    | _ => none
  | _ => none

/-- Walk a comparison chain from `cur` until a block in `stop` is reached,
taking at most `fuel` steps. -/
def chainWalk (blocks : Nat → Block) (stop : Nat → Bool) : Nat → Nat → Option Nat
  | 0, cur => if stop cur then some cur else none
  | fuel + 1, cur =>
    if stop cur then some cur
    else
      match chainStep blocks cur with
      | some next => chainWalk blocks stop fuel next
      | none => none

/-- The block a tagged switch on `t` has to reach: the block of the first
comparison with a value equal to `t`, else `defaultBlock`. -/
def chainTarget (t : Int) (caseBlocks : List Nat) (defaultBlock : Nat) :
    List (Nat × Int) → Nat
  | [] => defaultBlock
  | (i, v) :: rest =>
    if t = v then caseBlocks.getD i 0 else chainTarget t caseBlocks defaultBlock rest

/-- The comparison chain for a flat list of comparisons. -/
def chainFold (sv : Value) (cbs : List Nat) :
    List (Nat × Int) → Option Nat → IRGenerator → Except String (Option Nat × IRGenerator)
  | [], cur, g => .ok (cur, g)
  | (i, v) :: rest, cur, g => do
    let (cmp, g) ← g.NewICmp cur .EQ sv (.ConstInt .I32 v)
    let (nextBlock, g) ← g.NewBlock g.currentFunc ("switch.next." ++ toString i)
    let (_, g) ← g.NewCondBr cur cmp (cbs.getD i 0) nextBlock
    chainFold sv cbs rest (some nextBlock) g

/-- The body of a case clause that is empty (`none`) or the single statement
`return v` (`some v`). -/
def returnBody : Option Int → List Statement
  | none => []
  | some v => [.ReturnStatement (some (.IntegerLiteral v))]

/-- The default block after the block-creation loop of
`generateSwitchStatement`: the block of the last default clause, numbering
the clause blocks from `n`. -/
def defaultOf : List CaseClause → Nat → Option Nat → Option Nat
  | [], _, d => d
  | c :: rest, n, d => defaultOf rest (n + 1) (if c.isDefault then some n else d)

/-- A case clause with literal values and a body that is empty or a single
`return` of a literal. -/
def returnClause (c : Bool × List Int × Option Int) : CaseClause :=
  literalClause (c.1, c.2.1, returnBody c.2.2)

/-- The program `func f() { switch 1 { case 1: return 5 } }`. -/
def switchReturnProgram : Program :=
  [.FunctionStatement "f" [] none (some [
    .SwitchStatement (some (.IntegerLiteral 1)) [returnClause (false, [1], some 5)]])]

/-- Run `GenerateProgram` on the generator `g`; what a caller sees: whether
a module is returned, and the diagnostics, together with the generator left
behind (`none` when the run panics). -/
def runOn (g : IRGenerator) (p : Program) : Option ((Bool × List String) × IRGenerator) :=
  match GenerateProgram p g with
  | .ok (m, g') => some ((m.isSome, g'.errors), g')
  | .error _ => none

/-- The program `func f() { len("abc") }`. -/
def lenOfStringProgram : Program :=
  [.FunctionStatement "f" [] none (some [
    .ExpressionStatement (.CallExpression (.Identifier "len") [.StringLiteral "abc"])])]

/-- The program `func f() { cap("abc") }`. -/
def capOfStringProgram : Program :=
  [.FunctionStatement "f" [] none (some [
    .ExpressionStatement (.CallExpression (.Identifier "cap") [.StringLiteral "abc"])])]

/-- The program `func f() { x := 1 }`. -/
def shortDeclProgram : Program :=
  [.FunctionStatement "f" [] none (some [
    .ExpressionStatement (.InfixExpression (.Identifier "x") ":=" (.IntegerLiteral 1))])]

/-- The program `func f()` (a declaration without a body). -/
def declarationProgram : Program := [.FunctionStatement "f" [] none none]

/-- The program `func f() { var x = 1; var y = x }`. -/
def varFromIdentifierProgram : Program :=
  [.FunctionStatement "f" [] none (some [
    .VarStatement "x" none (some (.IntegerLiteral 1)),
    .VarStatement "y" none (some (.Identifier "x"))])]

/-- The program `var x int64 = 5`. -/
def globalInt64Program : Program :=
  [.VarStatement "x" (some (.Identifier "int64")) (some (.IntegerLiteral 5))]

/-- The program `var x float64 = 5`. -/
def globalFloat64Program : Program :=
  [.VarStatement "x" (some (.Identifier "float64")) (some (.IntegerLiteral 5))]

/-- The call `name(args...)` of a plain function name. -/
def callOf (name : String) (args : List Expression) : Expression :=
  .CallExpression (.Identifier name) args

/-- The top-level expression statement that is the identifier `name`. -/
def identifierStatement (name : String) : Statement :=
  .ExpressionStatement (.Identifier name)

/-- The diagnostic of `generateIdentifier` for an unbound name. -/
def unboundMessage (name : String) : String :=
  "Tanımlanmamış tanımlayıcı: " ++ name

/-- The short declaration `x := e`. -/
def shortDecl (x : String) (e : Expression) : Expression :=
  .InfixExpression (.Identifier x) ":=" e

/-- The clauses `case 1: return 5`, `case 2: x := 1; if true { return 2 }`,
`default:`. -/
def mixedCases : List (Bool × List Int × List Statement) :=
  [(false, [1], [.ReturnStatement (some (.IntegerLiteral 5))]),
   (false, [2], [.ExpressionStatement (shortDecl "x" (.IntegerLiteral 1)),
      .ExpressionStatement (.IfExpression (.BooleanLiteral true)
        (some [.ReturnStatement (some (.IntegerLiteral 2))]) none)]),
   (true, [], [])]

/-- The two instructions of a short declaration of `x` with value `v`: the
stack slot and the store into it (`n` is the identity of the slot). -/
def shortDeclCode (n : Nat) (x : String) (v : Value) : List Inst :=
  [.Alloca n v.Type x, .Store v (.Inst n (.Pointer v.Type))]

/-- The generator after the statements of `shortDeclProgram` have been
lowered on a fresh generator: outside every function, with the local `x` of
`f` still bound. -/
def afterShortDecl : IRGenerator :=
  stateAfter (generateStatements shortDeclProgram (defineBasicTypes New.resetModule)) New

/-! ## What lowering preserves: the induction -/

/-- The generator `x` is `g` after assignments that `Grows` allows; instances
follow the shape of `x`. -/
class Ext (g x : IRGenerator) : Prop where
  grows : Grows g x

/-- Lowering the expression `e` only extends the generator in the sense of
`Grows`. -/
structure ExprOK (e : Expression) : Prop where
  grows : ∀ {a g x g' : IRGenerator} {r : Option Value} [Ext g x],
    Grows a g → generateExpression e x = .ok (r, g') → Grows a g'

/-- Lowering the statement `s` only extends the generator. -/
structure StmtOK (s : Statement) : Prop where
  grows : ∀ {a g x g' : IRGenerator} {r : Unit} [Ext g x],
    Grows a g → generateStatement s x = .ok (r, g') → Grows a g'

/-- The values of a clause. -/
def CaseClause.values : CaseClause → List Expression
  | .mk _ vs _ => vs

/-- The body of a clause. -/
def CaseClause.body : CaseClause → List Statement
  | .mk _ _ b => b

/-- At least one diagnostic has been appended between `a` and `g`. -/
def Strict (a g : IRGenerator) : Prop := a.errors.length < g.errors.length

/-- A missing value of the expression `e` comes with a new diagnostic. -/
structure NilOK (e : Expression) : Prop where
  strict : ∀ {x g' : IRGenerator}, generateExpression e x = .ok (none, g') → Strict x g'

/-- An if-expression in a position whose missing value the lowering passes
on without a diagnostic: the expression itself, an operand of a prefix,
infix or index expression, or the first argument of a call or first element
of an array literal (recursively). -/
def passesNil : Expression → Bool
  | .IfExpression _ _ _ => true
  | .PrefixExpression _ right => passesNil right
  | .InfixExpression left _ right => passesNil left || passesNil right
  | .CallExpression _ (a :: _) => passesNil a
  | .ArrayLiteral (a :: _) => passesNil a
  | .IndexExpression left index => passesNil left || passesNil index
  | _ => false

/-- The expression `if true { }`. -/
def emptyIf : Expression := .IfExpression (.BooleanLiteral true) (some []) none

/-! ## Further example programs and specification-side tables -/

/-- The program `func f() { !5 }`. -/
def notOfIntegerProgram : Program :=
  [.FunctionStatement "f" [] none (some [
    .ExpressionStatement (.PrefixExpression "!" (.IntegerLiteral 5))])]

/-- The program `func f() { var x int8; fmt.Println(x) }`. -/
def printInt8Program : Program :=
  [.FunctionStatement "f" [] none (some [
    .VarStatement "x" (some (.Identifier "int8")) none,
    .ExpressionStatement
      (.MemberCall (.Identifier "fmt") (.Identifier "Println") [.Identifier "x"])])]

/-- The program `func f() { main() }`. -/
def callsMainProgram : Program :=
  [.FunctionStatement "f" [] none (some [
    .ExpressionStatement (.CallExpression (.Identifier "main") [])])]

/-- The integer and the floating-point instruction of an arithmetic operator,
as the specification pairs them: add, sub, mul and signed div. -/
def arithmeticInstructions (op : String) : Option (BinOp × BinOp) :=
  if op = "+" then some (.Add, .FAdd)
  else if op = "-" then some (.Sub, .FSub)
  else if op = "*" then some (.Mul, .FMul)
  else if op = "/" then some (.SDiv, .FDiv)
  else none

/-- The function body `{ return a }`. -/
def returnParameterBody : List Statement := [.ReturnStatement (some (.Identifier "a"))]

/-- The number of functions of the module that carry the name `name`. -/
def functionsNamed (g : IRGenerator) (name : String) : Nat :=
  g.module.funcs.countP (fun f => (g.funcs f).name = name)

/-- Every function of the module is an object of the store. -/
def IRGenerator.wellFormed (g : IRGenerator) : Prop :=
  ∀ f ∈ g.module.funcs, f < g.nfuncs

/-- The seven instructions of a string concatenation of `a` and `b`, the
first with identity `n`, with the four runtime helpers as callees. -/
def concatenationCode (n : Nat) (strlen malloc strcpy strcat a b : Value) : List Inst :=
  [.Call n strlen [a],
    .Call (n + 1) strlen [b],
    .Bin (n + 2) .Add (.Inst n (calleeRet strlen)) (.Inst (n + 1) (calleeRet strlen)),
    .Bin (n + 3) .Add (.Inst (n + 2) (calleeRet strlen)) (.ConstInt .I32 1),
    .Call (n + 4) malloc [.Inst (n + 3) (calleeRet strlen)],
    .Call (n + 5) strcpy [.Inst (n + 4) (calleeRet malloc), a],
    .Call (n + 6) strcat [.Inst (n + 4) (calleeRet malloc), b]]

/-! ## What a lowering keeps: the induction -/

/-- The block `c` may be written to by a lowering that starts from `a`: it is
the current block of `a` or a block that `a` does not have yet. -/
class Owned (a : IRGenerator) (c : Nat) : Prop where
  own : a.currentBB = some c ∨ a.nblocks ≤ c

/-- The optional block `blk`, if present, may be written to by a lowering that
starts from `a`. -/
class OwnedOpt (a : IRGenerator) (blk : Option Nat) : Prop where
  own : ∀ b, blk = some b → a.currentBB = some b ∨ a.nblocks ≤ b

/-- The block `b` is named in the list `B`. -/
class Mem (b : Nat) (B : List Nat) : Prop where
  mem : b ∈ B

/-- Every block named in `B0` is named in `B`. -/
class Sub (B0 B : List Nat) : Prop where
  sub : ∀ b ∈ B0, b ∈ B

/-- The generator `a` is inside a function. -/
class InFunc (a : IRGenerator) : Prop where
  inFunc : a.currentFunc.isSome = true

/-- The current function of the generator `a` is `f`. -/
class CurFunc (a : IRGenerator) (f : Nat) : Prop where
  cur : a.currentFunc = some f

/-- The value `v` has a pointer type. -/
class PtrVal (v : Value) : Prop where
  ptr : v.Type.IsPointer = true

/-- The generator `x` is `g` after assignments that `Keeps a` allows;
instances follow the shape of `x`. -/
class KExt (a g x : IRGenerator) (B : List Nat) : Prop where
  keeps : Keeps a g B → Keeps a x B

/-- Lowering the expression `e` keeps the generator in the sense of `Keeps`. -/
structure ExprKept (e : Expression) : Prop where
  keeps : ∀ {a g x g' : IRGenerator} {B : List Nat} {r : Option Value} [KExt a g x B],
    Keeps a g B → generateExpression e x = .ok (r, g') → Keeps a g' B

/-- Lowering the statement `s` keeps the generator in the sense of `Keeps`. -/
structure StmtKept (s : Statement) : Prop where
  keeps : ∀ {a g x g' : IRGenerator} {B : List Nat} {r : Unit} [KExt a g x B],
    Keeps a g B → generateStatement s x = .ok (r, g') → Keeps a g' B

/-- The statements of `generateIfExpression` for one arm: the block is
lowered and its last block branches to the merge block when it is open; an
absent arm branches at once. -/
def ifArm (arm : Option (List Statement)) (mergeBlock : Nat) (g : IRGenerator) :
    Except String (Unit × IRGenerator) :=
  match arm with
  | some stmts => do
    let (_, g) ← generateBlockStatement stmts g
    g.brIfOpen mergeBlock
  | none => g.NewBr g.currentBB mergeBlock

/-- The generator of `generateIfExpression` before the first arm: the
counter is advanced, the three blocks are made in the function `f`, the
block `b` is closed by the conditional branch and the cursor is on the then
block. -/
def ifHead (cond : Value) (f b : Nat) (g : IRGenerator) : IRGenerator :=
  let g := g.nextLabel
  let labelSuffix := toString g.labelCounter
  let thenBlock := g.nblocks
  let g := g.addBlock f ("if.then." ++ labelSuffix)
  let elseBlock := g.nblocks
  let g := g.addBlock f ("if.else." ++ labelSuffix)
  let g := g.addBlock f ("if.end." ++ labelSuffix)
  (g.setTerm b (.CondBr cond thenBlock elseBlock)).setCurrentBB (some thenBlock)

/-- The arm `{ return 1 }`. -/
def returnOneArm : List Statement := [.ReturnStatement (some (.IntegerLiteral 1))]

/-! ## The expression parser (`internal/parser/expressions.go`) -/

/-- A token (`token.Token`); `typ` is its `Type`, a `token.TokenType`. -/
structure Token where
  typ : String
  Literal : String
  Line : Nat
  Column : Nat
  deriving DecidableEq, Repr

/-- Expression nodes as the parser builds them (`ast.Expression` with its
`Token` field); a nil child is `none`. -/
inductive Node where
  | Identifier (token : Token) (value : String)
  | IntegerLiteral (token : Token) (value : Int)
  | StringLiteral (token : Token) (value : String)
  | BooleanLiteral (token : Token) (value : Bool)
  | NullLiteral (token : Token)
  | PrefixExpression (token : Token) (operator : String) (right : Option Node)
  | InfixExpression (token : Token) (operator : String) (left right : Option Node)
  | PostfixExpression (token : Token) (operator : String) (left : Option Node)

/-- Modelled from the spec: the struct `Parser` is declared in parser.go,
which is not under src.  These are the fields that expressions.go reads and
writes; the lexer behind the parser is the sequence `input` of the tokens it
returns, of which `pos` have been read. -/
structure Parser where
  curToken : Token
  peekToken : Token
  input : Nat → Token
  pos : Nat
  errors : List String

/-- Modelled from the spec: the method `nextToken` of parser.go (not under
src): the peek token becomes the current token and the next token of the
lexer becomes the peek token. -/
def Parser.nextToken (p : Parser) : Parser :=
  { p with curToken := p.peekToken, peekToken := p.input p.pos, pos := p.pos + 1 }

/-- Modelled from the spec: the method `curTokenIs` of parser.go. -/
def Parser.curTokenIs (p : Parser) (t : String) : Bool := p.curToken.typ = t

/-- Modelled from the spec: the method `peekTokenIs` of parser.go. -/
def Parser.peekTokenIs (p : Parser) (t : String) : Bool := p.peekToken.typ = t

/-- The functions of expressions.go that parser.go may register for a token
type in `prefixParseFns`; `other` is any other registered function. -/
inductive PrefixParseFn where
  | parseIdentifier
  | parseIntegerLiteral
  | parseStringLiteral
  | parseBooleanLiteral
  | parseNullLiteral
  | parsePrefixExpression
  | other (run : Parser → Option Node × Parser)

/-- The functions of expressions.go that parser.go may register for a token
type in `infixParseFns`; `other` is any other registered function. -/
inductive InfixParseFn where
  | parseInfixExpression
  | parseAssignExpression
  | parseShortVarDeclExpression
  | parsePostfixExpression
  | other (run : Option Node → Parser → Option Node × Parser)

/-- What expressions.go uses and the repository declares elsewhere (the
constants and tables of parser.go and of the token package), together with
the library functions `strconv.ParseInt(s, 0, 64)` (`none` when it returns an
error) and `strconv.Quote` (the verb `%q`); all taken as parameters. -/
structure Grammar where
  LOWEST : Nat
  PREFIX : Nat
  SEMICOLON : String
  TRUE : String
  precedences : String → Option Nat
  prefixParseFns : String → Option PrefixParseFn
  infixParseFns : String → Option InfixParseFn
  ParseInt : String → Option Int
  Quote : String → String

/-- Modelled from the spec: the method `peekPrecedence` of parser.go: the
precedence registered for the type of the peek token, else `LOWEST`. -/
def Parser.peekPrecedence (p : Parser) (G : Grammar) : Nat :=
  (G.precedences p.peekToken.typ).getD G.LOWEST

/-- Modelled from the spec: the method `curPrecedence` of parser.go: the
precedence registered for the type of the current token, else `LOWEST`. -/
def Parser.curPrecedence (p : Parser) (G : Grammar) : Nat :=
  (G.precedences p.curToken.typ).getD G.LOWEST

/-- The method `noPrefixParseFnError`. -/
def Parser.noPrefixParseFnError (p : Parser) (t : String) : Parser :=
  { p with errors := p.errors ++
      ["Satır " ++ toString p.curToken.Line ++ ", Sütun " ++ toString p.curToken.Column ++ ": " ++
        t ++ " için prefix ayrıştırma fonksiyonu bulunamadı"] }

/-- The method `parseIdentifier`. -/
def parseIdentifier (p : Parser) : Option Node :=
  some (.Identifier p.curToken p.curToken.Literal)

/-- The method `parseIntegerLiteral`. -/
def parseIntegerLiteral (G : Grammar) (p : Parser) : Option Node × Parser :=
  match G.ParseInt p.curToken.Literal with
  | none =>
    (none, { p with errors := p.errors ++
      ["Satır " ++ toString p.curToken.Line ++ ", Sütun " ++ toString p.curToken.Column ++ ": " ++
        G.Quote p.curToken.Literal ++ " bir tamsayıya dönüştürülemedi"] })
  | some value => (some (.IntegerLiteral p.curToken value), p)

/-- The method `parseStringLiteral`. -/
def parseStringLiteral (p : Parser) : Option Node :=
  some (.StringLiteral p.curToken p.curToken.Literal)

/-- The method `parseBooleanLiteral`. -/
def parseBooleanLiteral (G : Grammar) (p : Parser) : Option Node :=
  some (.BooleanLiteral p.curToken (p.curTokenIs G.TRUE))

/-- The method `parseNullLiteral`. -/
def parseNullLiteral (p : Parser) : Option Node :=
  some (.NullLiteral p.curToken)

/-- The method `parsePostfixExpression`. -/
def parsePostfixExpression (left : Option Node) (p : Parser) : Option Node :=
  some (.PostfixExpression p.curToken p.curToken.Literal left)

mutual
/-- The method `parseExpression`.  The recursion through the registered
functions is bounded by `fuel`; `none` is returned when it runs out. -/
def parseExpression (G : Grammar) : Nat → Nat → Parser → Option (Option Node × Parser)
  | 0, _, _ => none
  | fuel + 1, precedence, p =>
    match G.prefixParseFns p.curToken.typ with
    | none => some (none, p.noPrefixParseFnError p.curToken.typ)
    | some prefixFn =>
      match callPrefixFn G fuel prefixFn p with
      | none => none
      | some (leftExp, p) => parseExpressionLoop G fuel precedence leftExp p
/-- The `for` loop of `parseExpression`. -/
def parseExpressionLoop (G : Grammar) :
    Nat → Nat → Option Node → Parser → Option (Option Node × Parser)
  | 0, _, _, _ => none
  | fuel + 1, precedence, leftExp, p =>
    if !p.peekTokenIs G.SEMICOLON && precedence < p.peekPrecedence G then
      match G.infixParseFns p.peekToken.typ with
      | none => some (leftExp, p)
      | some infixFn =>
        match callInfixFn G fuel infixFn leftExp p.nextToken with
        | none => none
        | some (leftExp, p) => parseExpressionLoop G fuel precedence leftExp p
    else some (leftExp, p)
/-- The call `prefix()` of a registered function. -/
def callPrefixFn (G : Grammar) : Nat → PrefixParseFn → Parser → Option (Option Node × Parser)
  | 0, _, _ => none
  | _ + 1, .parseIdentifier, p => some (parseIdentifier p, p)
  | _ + 1, .parseIntegerLiteral, p => some (parseIntegerLiteral G p)
  | _ + 1, .parseStringLiteral, p => some (parseStringLiteral p, p)
  | _ + 1, .parseBooleanLiteral, p => some (parseBooleanLiteral G p, p)
  | _ + 1, .parseNullLiteral, p => some (parseNullLiteral p, p)
  | fuel + 1, .parsePrefixExpression, p => parsePrefixExpression G fuel p
  | _ + 1, .other run, p => some (run p)
/-- The call `infix(leftExp)` of a registered function. -/
def callInfixFn (G : Grammar) :
    Nat → InfixParseFn → Option Node → Parser → Option (Option Node × Parser)
  | 0, _, _, _ => none
  | fuel + 1, .parseInfixExpression, left, p => parseInfixExpression G fuel left p
  | fuel + 1, .parseAssignExpression, left, p => parseAssignExpression G fuel left p
  | fuel + 1, .parseShortVarDeclExpression, left, p => parseShortVarDeclExpression G fuel left p
  | _ + 1, .parsePostfixExpression, left, p => some (parsePostfixExpression left p, p)
  | _ + 1, .other run, left, p => some (run left p)
/-- The method `parsePrefixExpression`. -/
def parsePrefixExpression (G : Grammar) : Nat → Parser → Option (Option Node × Parser)
  | 0, _ => none
  | fuel + 1, p =>
    let token := p.curToken
    let p := p.nextToken
    match parseExpression G fuel G.PREFIX p with
    | none => none
    | some (right, p) => some (some (.PrefixExpression token token.Literal right), p)
/-- The method `parseInfixExpression`. -/
def parseInfixExpression (G : Grammar) :
    Nat → Option Node → Parser → Option (Option Node × Parser)
  | 0, _, _ => none
  | fuel + 1, left, p =>
    let token := p.curToken
    let precedence := p.curPrecedence G
    let p := p.nextToken
    match parseExpression G fuel precedence p with
    | none => none
    | some (right, p) => some (some (.InfixExpression token token.Literal left right), p)
/-- The method `parseAssignExpression`. -/
def parseAssignExpression (G : Grammar) :
    Nat → Option Node → Parser → Option (Option Node × Parser)
  | 0, _, _ => none
  | fuel + 1, left, p =>
    let token := p.curToken
    let precedence := p.curPrecedence G
    let p := p.nextToken
    match parseExpression G fuel precedence p with
    | none => none
    | some (right, p) => some (some (.InfixExpression token token.Literal left right), p)
/-- The method `parseShortVarDeclExpression`. -/
def parseShortVarDeclExpression (G : Grammar) :
    Nat → Option Node → Parser → Option (Option Node × Parser)
  | 0, _, _ => none
  | fuel + 1, left, p =>
    let token := p.curToken
    let precedence := p.curPrecedence G
    let p := p.nextToken
    match parseExpression G fuel precedence p with
    | none => none
    | some (right, p) => some (some (.InfixExpression token token.Literal left right), p)
end

/-- The token of type `t` with text `t`, at line 1 and column `c`. -/
def tokenAt (t : String) (c : Nat) : Token := ⟨t, t, 1, c⟩

/-- A grammar with the identifiers `a`, `b`, `c` and the operators `+` and
`*`: the precedences are `LOWEST = 1 < SUM = 4 < PRODUCT = 5 < PREFIX = 6`.
It has no integer literals (no token `INT` has a prefix function, and
`ParseInt` is never called). -/
def sumProductGrammar : Grammar where
  LOWEST := 1
  PREFIX := 6
  SEMICOLON := ";"
  TRUE := "TRUE"
  precedences := fun t => if t = "+" then some 4 else if t = "*" then some 5 else none
  prefixParseFns := fun t =>
    if t = "a" ∨ t = "b" ∨ t = "c" then some .parseIdentifier else none
  infixParseFns := fun t => if t = "+" ∨ t = "*" then some .parseInfixExpression else none
  ParseInt := fun _ => none
  Quote := String.quote

/-- The parser at the start of the tokens `ts`, followed by end-of-file
tokens. -/
def parserOn (ts : List Token) : Parser :=
  { curToken := ts.getD 0 (tokenAt "EOF" 0)
    peekToken := ts.getD 1 (tokenAt "EOF" 0)
    input := fun n => ts.getD n (tokenAt "EOF" 0)
    pos := 2
    errors := [] }

/-- The tokens of `a + b * c ;`. -/
def sumThenProduct : List Token :=
  [tokenAt "a" 1, tokenAt "+" 3, tokenAt "b" 5, tokenAt "*" 7, tokenAt "c" 9, tokenAt ";" 10]

/-- The tokens of `a * b + c ;`. -/
def productThenSum : List Token :=
  [tokenAt "a" 1, tokenAt "*" 3, tokenAt "b" 5, tokenAt "+" 7, tokenAt "c" 9, tokenAt ";" 10]

/-- The node `Infix(op, left, right)` built by `parseInfixExpression` at the
operator token `op`. -/
def infixNode (op : Token) (left right : Option Node) : Option Node :=
  some (.InfixExpression op op.Literal left right)

/-! ## Further definitions for the claims on functions, logical operators and invariants -/

/-- The part of `generateFunctionStatement` before the body is lowered: the
function is made and becomes the current one, its entry block the current
block, and the parameters are bound. -/
def functionEntry (funcName : String) (parameters : List String)
    (returnType : Option Expression) (g : IRGenerator) : Except String (Unit × IRGenerator) :=
  match functionReturnType returnType g with
  | (retTy, g) => do
    let (fn, g) := g.NewFunc funcName retTy []
    let g := appendParams parameters fn g
    let g := g.setCurrentFunc (some fn)
    let (entryBlock, g) ← g.NewBlock (some fn) "entry"
    let g := g.setCurrentBB (some entryBlock)
    bindParameters parameters 0 fn entryBlock g

/-- The statement `f()` with the arguments `arguments`. -/
def callStatement (f : String) (arguments : List Expression) : Statement :=
  .ExpressionStatement (.CallExpression (.Identifier f) arguments)

/-- The statement `return n * f(n)`, alone in a body. -/
def recursiveProductBody : List Statement :=
  [.ReturnStatement (some (.InfixExpression (.Identifier "n") "*"
    (.CallExpression (.Identifier "f") [.Identifier "n"])))]

/-- The declaration `func f(n) { return n * f(n) }`. -/
def recursiveProductFunction : Statement :=
  .FunctionStatement "f" ["n"] none (some recursiveProductBody)

/-- The declaration `func f() { return; f() }`. -/
def callAfterReturnFunction : Statement :=
  .FunctionStatement "f" [] none (some [.ReturnStatement none, callStatement "f" []])

/-- The generator of the `&&` and `||` cases of `generateInfixExpression`
before the right operand is lowered in its block: the right block and the
merge block are made in the function `f`, the block `b` is closed by the
conditional branch on the left value and the cursor is on the right
block. -/
def logicalHead (op : String) (lv : Value) (f b : Nat) (g : IRGenerator) : IRGenerator :=
  let rightBlock := g.nblocks
  let g := g.addBlock f ""
  let mergeBlock := g.nblocks
  let g := g.addBlock f ""
  let g := g.setTerm b
    (if op = "&&" then .CondBr lv rightBlock mergeBlock else .CondBr lv mergeBlock rightBlock)
  g.setCurrentBB (some rightBlock)

/-- The constant a logical operator yields. -/
def logicalResult (op : String) : Value :=
  if op = "&&" then .ConstInt .I1 0 else .ConstInt .I1 1

/-- The expression `true && (true && true)`. -/
def nestedAnd : Expression :=
  .InfixExpression (.BooleanLiteral true) "&&"
    (.InfixExpression (.BooleanLiteral true) "&&" (.BooleanLiteral true))

/-- The cursor is consistent: the current function is absent exactly when the
current block is. -/
def IRGenerator.cursorConsistent (g : IRGenerator) : Prop :=
  g.currentFunc.isNone = g.currentBB.isNone

instance (g : IRGenerator) : Decidable g.cursorConsistent :=
  inferInstanceAs (Decidable (g.currentFunc.isNone = g.currentBB.isNone))

/-- Every value bound in the symbol table has a pointer type. -/
def IRGenerator.symbolsArePointers (g : IRGenerator) : Prop :=
  ∀ p ∈ g.symbolTable, p.2.Type.IsPointer = true

/-- The function `func f(a) { if true { a++ } }`. -/
def ifIncrementFunction : Statement :=
  .FunctionStatement "f" ["a"] none (some [.ExpressionStatement
    (.IfExpression (.BooleanLiteral true)
      (some [.ExpressionStatement (.PostfixExpression (.Identifier "a") "++")]) none)])

/-- The program `func f() float64 { }`. -/
def implicitReturnFloatProgram : Program :=
  [.FunctionStatement "f" [] (some (.Identifier "float64")) (some [])]

/-- The program `func f() int64 { return }`. -/
def bareReturnInt64Program : Program :=
  [.FunctionStatement "f" [] (some (.Identifier "int64")) (some [.ReturnStatement none])]

/-- The program `func f() { os.Exit(1); os.Exit(2) }`. -/
def exitTwiceProgram : Program :=
  [.FunctionStatement "f" [] none (some [
    .ExpressionStatement (.MemberCall (.Identifier "os") (.Identifier "Exit") [.IntegerLiteral 1]),
    .ExpressionStatement (.MemberCall (.Identifier "os") (.Identifier "Exit") [.IntegerLiteral 2])])]

/-- The program `func f() { var x int8; x + 1; x < 1; -x; x++ }`. -/
def int8ArithmeticProgram : Program :=
  [.FunctionStatement "f" [] none (some [
    .VarStatement "x" (some (.Identifier "int8")) none,
    .ExpressionStatement (.InfixExpression (.Identifier "x") "+" (.IntegerLiteral 1)),
    .ExpressionStatement (.InfixExpression (.Identifier "x") "<" (.IntegerLiteral 1)),
    .ExpressionStatement (.PrefixExpression "-" (.Identifier "x")),
    .ExpressionStatement (.PostfixExpression (.Identifier "x") "++")])]

/-- The program `func f() { var x int; [x++] }`. -/
def arrayOfIncrementProgram : Program :=
  [.FunctionStatement "f" [] none (some [
    .VarStatement "x" (some (.Identifier "int")) none,
    .ExpressionStatement (.ArrayLiteral [.PostfixExpression (.Identifier "x") "++"])])]

/-! # Properties -/

/-! ## Auxiliary lemmas -/

@[simp] theorem Value.type_inst (id : Nat) (t : Ty) : (Value.Inst id t).Type = t := rfl

@[simp] theorem Value.type_constInt (x : Int) (t : Ty) : (Value.ConstInt t x).Type = t := rfl

/-! ### Object stores -/

@[simp] theorem update_same {α : Type} (m : Nat → α) (a : Nat) (v : α) :
    update m a v a = v := by
  simp [update]

@[simp] theorem update_ne {α : Type} (m : Nat → α) (a x : Nat) (v : α) (h : x ≠ a) :
    update m a v x = m x := by
  simp [update, h]

theorem update_apply {α : Type} (m : Nat → α) (a x : Nat) (v : α) :
    update m a v x = if x = a then v else m x := rfl

@[simp] theorem update_update {α : Type} (m : Nat → α) (a : Nat) (v w : α) :
    update (update m a v) a w = update m a w := by
  funext x; by_cases h : x = a <;> simp [update, h]

/-! ### The constructors on a non-nil block or function -/

@[simp] theorem NewInst_some (g : IRGenerator) (b : Nat) (mk : Nat → Inst) (ty : Ty) :
    g.NewInst (some b) mk ty = .ok (.Inst g.nextId ty, (g.emit b (mk g.nextId)).fresh) := rfl

/-- A store whose operand types agree is appended to the block. -/
@[simp] theorem NewStore_some (g : IRGenerator) (b : Nat) (src dst : Value)
    (h : dst.Type = .Pointer src.Type) :
    g.NewStore (some b) src dst = .ok ((), g.emit b (.Store src dst)) := by
  simp [IRGenerator.NewStore, storeCheck, h]

/-- A store that returns has passed the type check and was appended to an
existing block. -/
theorem NewStore_ok {g g' : IRGenerator} {blk : Option Nat} {src dst : Value} {v : Unit}
    (e : g.NewStore blk src dst = .ok (v, g')) :
    ∃ b, blk = some b ∧ g' = g.emit b (.Store src dst) ∧ dst.Type = .Pointer src.Type := by
  unfold IRGenerator.NewStore at e
  split at e
  · cases e
  · rename_i hc
    cases blk with
    | none => cases e
    | some b =>
      simp only [Except.ok.injEq, Prod.mk.injEq] at e
      refine ⟨b, rfl, e.2.symm, ?_⟩
      unfold storeCheck at hc
      cases hd : dst.Type <;> rw [hd] at hc <;> simp at hc
      rename_i elem
      by_cases hs : src.Type = elem
      · rw [hs]
      · have h2 := hc hs
        split at h2 <;> cases h2

/-- A store into a slot of another type panics. -/
theorem NewStore_mismatch (g : IRGenerator) (blk : Option Nat) (src dst : Value) (e : Ty)
    (hd : dst.Type = .Pointer e) (hs : src.Type ≠ e) (hn : src ≠ .Nil) :
    g.NewStore blk src dst = .error ("store operands are not compatible: src="
      ++ src.Type.String ++ "; dst=" ++ dst.Type.String) := by
  simp [IRGenerator.NewStore, storeCheck, hd, hs, hn]

/-- An integer comparison of a value of integer type is emitted. -/
theorem NewICmp_int (g : IRGenerator) (blk : Option Nat) (pred : IPred) (x y : Value)
    (h : x.Type.IsInt = true) :
    g.NewICmp blk pred x y = g.NewInst blk (fun id => .ICmp id pred x y) .I1 := by
  simp [IRGenerator.NewICmp, h]

/-- An integer comparison that returns has been emitted. -/
theorem NewICmp_ok {g g' : IRGenerator} {blk : Option Nat} {pred : IPred} {x y v : Value}
    (e : g.NewICmp blk pred x y = .ok (v, g')) :
    g.NewInst blk (fun id => .ICmp id pred x y) .I1 = .ok (v, g') := by
  unfold IRGenerator.NewICmp at e
  split at e
  · exact e
  · cases e

/-- A floating-point comparison that returns has been emitted. -/
theorem NewFCmp_ok {g g' : IRGenerator} {blk : Option Nat} {pred : FPred} {x y v : Value}
    (e : g.NewFCmp blk pred x y = .ok (v, g')) :
    g.NewInst blk (fun id => .FCmp id pred x y) .I1 = .ok (v, g') := by
  unfold IRGenerator.NewFCmp at e
  split at e
  · exact e
  · cases e

/-- An address computation that returns has been emitted, with the type the
indices reach. -/
theorem NewGetElementPtr_ok {g g' : IRGenerator} {blk : Option Nat} {elemType : Ty}
    {src v : Value} {indices : List Value}
    (e : g.NewGetElementPtr blk elemType src indices = .ok (v, g')) :
    ∃ t, gepResult elemType indices.tail = .ok t ∧
      g.NewInst blk (fun id => .GetElementPtr id elemType src indices) (.Pointer t)
        = .ok (v, g') := by
  unfold IRGenerator.NewGetElementPtr at e
  split at e
  · cases e
  · rename_i t ht
    exact ⟨t, ht, e⟩

/-- A call that returns has been emitted. -/
theorem NewCall_ok {g g' : IRGenerator} {blk : Option Nat} {callee v : Value}
    {args : List Value} (e : g.NewCall blk callee args = .ok (v, g')) :
    g.NewInst blk (fun id => .Call id callee args) (calleeRet callee) = .ok (v, g') := by
  unfold IRGenerator.NewCall at e
  split at e
  · exact e
  · split at e
    · exact e
    · cases e
    · cases e

/-- An integer comparison of a 32-bit instruction result is emitted. -/
theorem NewICmp_i32 (g : IRGenerator) (blk : Option Nat) (pred : IPred) (id : Nat) (y : Value) :
    g.NewICmp blk pred (.Inst id .I32) y =
      g.NewInst blk (fun k => .ICmp k pred (.Inst id .I32) y) .I1 := rfl

/-- A floating-point comparison of a value of floating-point type is
emitted. -/
theorem NewFCmp_float (g : IRGenerator) (blk : Option Nat) (pred : FPred) (x y : Value)
    (h : x.Type.IsFloat = true) :
    g.NewFCmp blk pred x y = g.NewInst blk (fun id => .FCmp id pred x y) .I1 := by
  simp [IRGenerator.NewFCmp, h]

/-- An address computation whose indices fit the type is emitted. -/
theorem NewGetElementPtr_fits (g : IRGenerator) (blk : Option Nat) (elemType t : Ty)
    (src : Value) (indices : List Value) (h : gepResult elemType indices.tail = .ok t) :
    g.NewGetElementPtr blk elemType src indices =
      g.NewInst blk (fun id => .GetElementPtr id elemType src indices) (.Pointer t) := by
  simp [IRGenerator.NewGetElementPtr, h]

/-- A call of a function object is emitted. -/
@[simp] theorem NewCall_func (g : IRGenerator) (blk : Option Nat) (f : Nat) (sig : Ty)
    (args : List Value) :
    g.NewCall blk (.Func f sig) args =
      g.NewInst blk (fun id => .Call id (.Func f sig) args) (calleeRet (.Func f sig)) := rfl

@[simp] theorem gepResult_nil (t : Ty) : gepResult t [] = .ok t := by
  cases t <;> rfl

@[simp] theorem gepResult_array (n : Nat) (e : Ty) (i : Value) (rest : List Value) :
    gepResult (.Array n e) (i :: rest) = gepResult e rest := rfl

/-- The address of an element of an array is computed. -/
theorem NewGetElementPtr_array (g : IRGenerator) (blk : Option Nat) (n : Nat) (et : Ty)
    (src i j : Value) :
    g.NewGetElementPtr blk (.Array n et) src [i, j] =
      g.NewInst blk (fun id => .GetElementPtr id (.Array n et) src [i, j]) (.Pointer et) := by
  simp [IRGenerator.NewGetElementPtr, gepResult]

/-- The address of the data field of a slice aggregate is computed. -/
theorem NewGetElementPtr_data (g : IRGenerator) (blk : Option Nat) (et : Ty) (src i : Value) :
    g.NewGetElementPtr blk (sliceStruct et) src [i, .ConstInt .I32 0] =
      g.NewInst blk (fun id => .GetElementPtr id (sliceStruct et) src [i, .ConstInt .I32 0])
        (.Pointer (.Pointer et)) := rfl

/-- The address of the length field of a slice aggregate is computed. -/
theorem NewGetElementPtr_len (g : IRGenerator) (blk : Option Nat) (et : Ty) (src i : Value) :
    g.NewGetElementPtr blk (sliceStruct et) src [i, .ConstInt .I32 1] =
      g.NewInst blk (fun id => .GetElementPtr id (sliceStruct et) src [i, .ConstInt .I32 1])
        (.Pointer .I32) := rfl

/-- The address of the capacity field of a slice aggregate is computed. -/
theorem NewGetElementPtr_cap (g : IRGenerator) (blk : Option Nat) (et : Ty) (src i : Value) :
    g.NewGetElementPtr blk (sliceStruct et) src [i, .ConstInt .I32 2] =
      g.NewInst blk (fun id => .GetElementPtr id (sliceStruct et) src [i, .ConstInt .I32 2])
        (.Pointer .I32) := rfl

@[simp] theorem NewTerm_some (g : IRGenerator) (b : Nat) (t : Terminator) :
    g.NewTerm (some b) t = .ok ((), g.setTerm b t) := rfl

@[simp] theorem NewBlock_some (g : IRGenerator) (f : Nat) (name : String) :
    g.NewBlock (some f) name = .ok (g.nblocks, g.addBlock f name) := rfl

@[simp] theorem TermOf_some (g : IRGenerator) (b : Nat) :
    g.TermOf (some b) = .ok (g.blocks b).term := rfl

@[simp] theorem gepElem_nil (t : Ty) : gepElem t [] = t := by
  cases t <;> rfl

@[simp] theorem gepElem_len (et : Ty) : gepElem (sliceStruct et) [.ConstInt .I32 1] = .I32 := rfl

@[simp] theorem gepElem_cap (et : Ty) : gepElem (sliceStruct et) [.ConstInt .I32 2] = .I32 := rfl

/-! ### The reference machine -/


theorem reg_setReg_same (m : Machine) (id : Nat) (r : RVal) : (m.setReg id r).reg id = r := by
  simp [Machine.setReg, Machine.reg]

theorem reg_setReg_ne (m : Machine) (id k : Nat) (r : RVal) (h : id ≠ k) :
    (m.setReg id r).reg k = m.reg k := by
  simp [Machine.setReg, Machine.reg, List.find?, h]

theorem reg_store (m : Machine) (b : Base) (p : List Int) (r : RVal) (k : Nat) :
    (m.store b p r).reg k = m.reg k := rfl

theorem eval_inst (m : Machine) (id : Nat) (t : Ty) : m.eval (.Inst id t) = m.reg id := rfl

theorem eval_constInt (m : Machine) (t : Ty) (x : Int) :
    m.eval (.ConstInt t x) = .int (wrap t.bits x) := rfl

theorem eval_setReg (m : Machine) (id : Nat) (r : RVal) (v : Value)
    (h : ∀ t, v ≠ .Inst id t) : (m.setReg id r).eval v = m.eval v := by
  cases v <;> simp [Machine.eval]
  case Inst k t =>
    have : id ≠ k := fun e => h t (by rw [e])
    exact reg_setReg_ne m id k r this

theorem eval_store (m : Machine) (b : Base) (p : List Int) (r : RVal) (v : Value) :
    (m.store b p r).eval v = m.eval v := by
  cases v <;> rfl

theorem load_setReg (m : Machine) (id : Nat) (r : RVal) (b : Base) (p : List Int) :
    (m.setReg id r).load b p = m.load b p := rfl

theorem load_store_same (m : Machine) (b : Base) (p : List Int) (r : RVal) :
    (m.store b p r).load b p = r := by
  simp [Machine.store, Machine.load]

theorem wrap_one : wrap 32 1 = 1 := by decide

theorem load_store_ne (m : Machine) (b b' : Base) (p p' : List Int) (r : RVal)
    (h : (b, p) ≠ (b', p')) : (m.store b p r).load b' p' = m.load b' p' := by
  simp [Machine.store, Machine.load, List.find?, h]

theorem wrap_zero : wrap 32 0 = 0 := by decide

theorem wrap_two : wrap 32 2 = 2 := by decide

theorem wrap_of_range (x : Int) (h1 : -2 ^ 31 ≤ x) (h2 : x < 2 ^ 31) : wrap 32 x = x := by
  unfold wrap
  have : (x + 2 ^ (32 - 1)) % 2 ^ 32 = x + 2 ^ (32 - 1) := by
    apply Int.emod_eq_of_lt <;> norm_num <;> omega
  rw [this]; ring

/-- Meaning of the postfix code: the load yields the old content and the
cell holds the updated content afterwards. -/
theorem postfix_semantics (n : Nat) (binop : BinOp) (addr : Value) (m : Machine)
    (base : Base) (path : List Int) (v : Int)
    (hfresh : ∀ id t, addr = .Inst id t → id < n)
    (haddr : m.eval addr = .ptr base path) (hv : m.load base path = .int v) :
    (m.run (postfixCode n binop addr)).eval (.Inst n .I32) = .int v ∧
    (m.run (postfixCode n binop addr)).eval addr = .ptr base path ∧
    (m.run (postfixCode n binop addr)).load base path = evalBin binop 32 (.int v) (.int 1) := by
  have h1 : ∀ t, addr ≠ .Inst n t := fun t e => Nat.lt_irrefl _ (hfresh n t e)
  have h2 : ∀ t, addr ≠ .Inst (n + 1) t := fun t e => by
    have := hfresh (n + 1) t e
    omega
  simp [postfixCode, Machine.run, Machine.exec, haddr, hv, eval_setReg, h1, h2, eval_store,
    load_store_same, eval_inst, eval_constInt, reg_setReg_same, reg_setReg_ne, wrap_one,
    Ty.bits, load_setReg, reg_store, Value.type_inst]

/-! ### Lookup of a function by name -/

theorem getFunction_name (g : IRGenerator) (name : String) (f : Nat)
    (h : g.getFunction name = some f) : (g.funcs f).name = name := by
  have := List.find?_some h
  simpa using this

/-! ### Unfolding of `generateExpression` -/

theorem generateExpression_index (left index : Expression) (g : IRGenerator) :
    generateExpression (.IndexExpression left index) g =
      (if g.currentBB.isNone then
        failWith g "Geçerli bir blok yok, index expression değerlendirilemiyor"
      else do
        let (arrayValue, g) ← generateExpression left g
        match arrayValue with
        | none => pure (none, g)
        | some arrayValue =>
          let (indexValue, g) ← generateExpression index g
          match indexValue with
          | none => pure (none, g)
          | some indexValue => indexAccess arrayValue indexValue g) := rfl

theorem generateExpression_make (args : List Expression) (g : IRGenerator) :
    generateExpression (.CallExpression (.Identifier "make") args) g
      = generateMakeCall args g := rfl

theorem generateMakeCall_length (T : Expression) (n : Int) (g : IRGenerator) :
    generateMakeCall [.ArrayType none T, .IntegerLiteral n] g =
      (if g.currentBB.isNone then
        failWith g "Geçerli bir blok yok, make() çağrısı yapılamıyor"
      else makeSlice (makeElementType T g) (some (.ConstInt .I32 n)) (some (.ConstInt .I32 n)) g) := by
  cases T <;> rfl

theorem generateMakeCall_capacity (T : Expression) (n c : Int) (g : IRGenerator) :
    generateMakeCall [.ArrayType none T, .IntegerLiteral n, .IntegerLiteral c] g =
      (if g.currentBB.isNone then
        failWith g "Geçerli bir blok yok, make() çağrısı yapılamıyor"
      else makeSlice (makeElementType T g) (some (.ConstInt .I32 n)) (some (.ConstInt .I32 c)) g) := by
  cases T <;> rfl

theorem generateExpression_append (args : List Expression) (g : IRGenerator) :
    generateExpression (.CallExpression (.Identifier "append") args) g
      = generateAppendCall args g := rfl

theorem generateAppendCall_cons (a0 a1 : Expression) (rest : List Expression)
    (g : IRGenerator) :
    generateAppendCall (a0 :: a1 :: rest) g =
      (if g.currentBB.isNone then
        failWith g "Geçerli bir blok yok, append() çağrısı yapılamıyor"
      else do
        let (sliceArg, g) ← generateExpression a0 g
        match sliceArg with
        | none => pure (none, g)
        | some sliceArg =>
          match sliceArg.Type with
          | .Pointer structType =>
            match sliceElementType structType with
            | none => failWith g "Slice element tipi belirlenemedi"
            | some elementType => do
              let ((lenPtr, currentLen, newLen, endBlock), g) ←
                appendPrologue (rest.length + 1) sliceArg structType g
              let (_, g) ← appendElements (a1 :: rest) 0 currentLen sliceArg structType elementType g
              let (_, g) ← appendEpilogue lenPtr newLen endBlock g
              pure (some sliceArg, g)
          | _ => failWith g "append() fonksiyonunun ilk argümanı slice olmalıdır") := rfl

/-! ### The bounds check -/

/-- Shape of the code emitted by `generateBoundsCheck` at an existing block
`b` of the function `f`. -/
theorem boundsCheck_shape (g : IRGenerator) (idx len : Value) (b f : Nat)
    (hb : g.currentBB = some b) (hlt : b < g.nblocks) (hf : g.currentFunc = some f)
    (hidx : idx.Type.IsInt = true) :
    ∃ g' pf G, generateBoundsCheck idx len g = .ok ((), g') ∧
      g'.blocks b = ⟨(g.blocks b).name, (g.blocks b).insts ++ boundsCheckCode g.nextId idx len,
        some (.CondBr (.Inst (g.nextId + 2) .I1) g.nblocks (g.nblocks + 1))⟩ ∧
      g'.blocks g.nblocks = ⟨"bounds_panic",
        [.Call (g.nextId + 3) (g'.funcValue pf) [.ConstGEP00 boundsPanicMessage.Type G]],
        some .Unreachable⟩ ∧
      (g'.funcs pf).name = "panic" ∧
      (g'.globals G).init = boundsPanicMessage ∧
      g'.blocks (g.nblocks + 1) = ⟨"bounds_ok", [], none⟩ ∧
      (∀ c, c < g.nblocks → c ≠ b → g'.blocks c = g.blocks c) ∧
      g'.nblocks = g.nblocks + 2 ∧
      g'.currentBB = some (g.nblocks + 1) ∧ g'.currentFunc = some f ∧
      g'.nextId = g.nextId + 4 ∧ g'.errors = g.errors := by
  have hne : ¬ g.nblocks = b := Nat.ne_of_gt hlt
  have hne' : ¬ b = g.nblocks := Nat.ne_of_lt hlt
  have hne1 : ¬ g.nblocks + 1 = b := by omega
  have hne1' : ¬ b = g.nblocks + 1 := by omega
  simp only [generateBoundsCheck, hb, hf, Option.isNone_some, Bool.false_eq_true, if_false,
    NewICmp_int _ _ _ _ _ hidx, IRGenerator.NewBin, NewInst_some, NewBlock_some,
    IRGenerator.NewCondBr, IRGenerator.funcValue, NewCall_func, IRGenerator.NewUnreachable,
    NewTerm_some,
    Bind.bind, Except.bind, pure, Except.pure,
    generateStringLiteral, IRGenerator.NewGlobalDef, getOrDeclare, IRGenerator.NewFunc,
    IRGenerator.emit_currentBB, IRGenerator.fresh_currentBB, IRGenerator.addBlock_currentBB,
    IRGenerator.setTerm_currentBB, IRGenerator.emit_currentFunc, IRGenerator.fresh_currentFunc,
    IRGenerator.addBlock_currentFunc, IRGenerator.emit_nblocks, IRGenerator.fresh_nblocks,
    IRGenerator.addBlock_nblocks, 
    IRGenerator.fresh_nextId, IRGenerator.emit_nextId, Value.type_inst]
  generalize hm : Value.ConstCharArray _ = msg
  have hmsg : boundsPanicMessage = msg := hm
  generalize hgf : IRGenerator.getFunction _ "panic" = r
  cases r with
  | some pf =>
    have hname := getFunction_name _ _ _ hgf
    clear hgf
    simp only [IRGenerator.addGlobal_currentBB, IRGenerator.setCurrentBB_currentBB, NewInst_some, NewTerm_some,
      IRGenerator.emit_currentBB, IRGenerator.fresh_currentBB]
    refine ⟨_, pf, g.nglobals, rfl, ?_, ?_, ?_, ?_, ?_, ?_, ?_, ?_, ?_, ?_, ?_⟩
    · clear hname; simp [hne, hne', hne1, hne1', boundsCheckCode, Block.push, Block.close]
    · clear hname; simp [hne, hne', hne1, hne1', Block.push, Block.close, hmsg, IRGenerator.funcValue]
    · refine Eq.trans ?_ hname
      clear hname
      simp
    · clear hname; simp [hmsg]
    · clear hname; simp [hne, hne', hne1, hne1']
    · clear hname
      intro c hc hcb
      have h1 : ¬ c = g.nblocks := by omega
      have h2 : ¬ c = g.nblocks + 1 := by omega
      simp [h1, h2, hcb]
    · simp
    · simp
    · simp [hf]
    · simp
    · simp
  | none => 
    clear hgf
    simp only [IRGenerator.addGlobal_currentBB, IRGenerator.setCurrentBB_currentBB, NewInst_some, NewTerm_some,
      IRGenerator.emit_currentBB, IRGenerator.fresh_currentBB, IRGenerator.bindSymbol_currentBB,
      IRGenerator.addFunc_currentBB, if_false, Bool.false_eq_true]
    refine ⟨_, g.nfuncs, g.nglobals, rfl, ?_, ?_, ?_, ?_, ?_, ?_, ?_, ?_, ?_, ?_, ?_⟩
    · simp [hne, hne', hne1, hne1', boundsCheckCode, Block.push, Block.close]
    · simp [hne, hne', hne1, hne1', Block.push, Block.close, hmsg, IRGenerator.funcValue]
    · simp
    · simp [hmsg]
    · simp [hne, hne', hne1, hne1']
    · intro c hc hcb
      have h1 : ¬ c = g.nblocks := by omega
      have h2 : ¬ c = g.nblocks + 1 := by omega
      simp [h1, h2, hcb]
    · simp
    · simp
    · simp [hf]
    · simp
    · simp

/-! ### The slice built by `make` -/

/-- Shape of the code emitted by `makeSlice` at the current block. -/
theorem makeSlice_shape (et : Ty) (len cap : Value) (g : IRGenerator) (b : Nat)
    (hb : g.currentBB = some b) (hlen : len.Type = .I32) (hcap : cap.Type = .I32) :
    ∃ g', makeSlice et (some len) (some cap) g
        = .ok (some (.Inst g.nextId (.Pointer (sliceStruct et))), g') ∧
      (g'.blocks b).insts = (g.blocks b).insts ++ makeCode g.nextId et len cap ∧
      g'.errors = g.errors ∧ g'.currentBB = some b := by
  simp only [makeSlice, hb, IRGenerator.NewAlloca, NewGetElementPtr_array,
    NewGetElementPtr_data, NewGetElementPtr_len, NewGetElementPtr_cap, NewInst_some, NewStore_some, Value.type_inst, hlen, hcap,
    Bind.bind, Except.bind, pure, Except.pure, Option.getD_some,
    IRGenerator.emit_currentBB, IRGenerator.fresh_currentBB, IRGenerator.fresh_nextId,
    IRGenerator.emit_nextId, List.tail_cons]
  refine ⟨_, rfl, ?_, ?_, ?_⟩
  · simp [makeCode, Block.push, sliceStruct, gepElem, TyList.get?]
  · simp
  · simp [hb]

/-- Meaning of the code of `make` with constant arguments: the fields 1 and
2 of the new aggregate hold the two constants. -/
theorem makeCode_semantics (m : Machine) (n : Nat) (et : Ty) (x y : Int) :
    ((m.run (makeCode n et (.ConstInt .I32 x) (.ConstInt .I32 y))).load (.stack n) [1]
        = .int (wrap 32 x)) ∧
    ((m.run (makeCode n et (.ConstInt .I32 x) (.ConstInt .I32 y))).load (.stack n) [2]
        = .int (wrap 32 y)) := by
  have h21 : ((Base.stack n, [2]) : Base × List Int) ≠ (Base.stack n, [1]) := by simp
  simp [makeCode, Machine.run, Machine.exec, eval_inst, eval_constInt, reg_setReg_same,
    reg_setReg_ne, reg_store, load_setReg, load_store_same, load_store_ne, gepPath, intsOf,
    shiftPath, Ty.bits, wrap_zero, wrap_one, wrap_two, h21]

/-! ### The code of `append` -/

/-- Shape of the code emitted by `appendPrologue` at an existing block `b`
of the function `f`. -/
theorem appendPrologue_shape (count : Nat) (sliceArg : Value) (st et : Ty) (g : IRGenerator)
    (b f : Nat) (hb : g.currentBB = some b) (hlt : b < g.nblocks)
    (hf : g.currentFunc = some f) (hst : st = sliceStruct et) :
    ∃ g', appendPrologue count sliceArg st g
        = .ok ((.Inst g.nextId (fieldPtr st 1), .Inst (g.nextId + 1) .I32,
            .Inst (g.nextId + 4) .I32, g.nblocks + 2), g') ∧
      (g'.blocks b).insts = (g.blocks b).insts ++ appendHead g.nextId st sliceArg count ∧
      (g'.blocks b).term
        = some (.CondBr (.Inst (g.nextId + 5) .I1) g.nblocks (g.nblocks + 1)) ∧
      g'.blocks g.nblocks
        = ⟨"realloc", appendGrow g.nextId st, some (.Br (g.nblocks + 1))⟩ ∧
      g'.blocks (g.nblocks + 1) = ⟨"append", [], none⟩ ∧
      g'.blocks (g.nblocks + 2) = ⟨"append_end", [], none⟩ ∧
      g'.currentBB = some (g.nblocks + 1) ∧ g'.errors = g.errors := by
  have hne : ¬ g.nblocks = b := Nat.ne_of_gt hlt
  have hne' : ¬ b = g.nblocks := Nat.ne_of_lt hlt
  have hne1 : ¬ g.nblocks + 1 = b := by omega
  have hne1' : ¬ b = g.nblocks + 1 := by omega
  have hne2 : ¬ g.nblocks + 2 = b := by omega
  have hne2' : ¬ b = g.nblocks + 2 := by omega
  have e1 : g.nblocks ≠ g.nblocks + 1 + 1 := by omega
  have e2 : g.nblocks + 1 ≠ g.nblocks + 1 + 1 := by omega
  have e3 : g.nblocks ≠ g.nblocks + 1 := by omega
  have e4 : g.nblocks + 1 + 1 ≠ g.nblocks := by omega
  have e5 : g.nblocks + 1 + 1 ≠ g.nblocks + 1 := by omega
  have e6 : b ≠ g.nblocks + 1 + 1 := by omega
  subst hst
  have hf1 : fieldPtr (sliceStruct et) 1 = .Pointer .I32 := rfl
  rw [hf1]
  simp only [appendPrologue, hb, hf, NewGetElementPtr_len, NewGetElementPtr_cap,
    IRGenerator.NewLoad, IRGenerator.NewBin, NewICmp_i32,
    IRGenerator.NewSelect, IRGenerator.NewCondBr,
    IRGenerator.NewBr, NewInst_some, NewStore_some, NewTerm_some, NewBlock_some,
    Bind.bind, Except.bind, pure, Except.pure,
    IRGenerator.emit_currentBB, IRGenerator.fresh_currentBB, IRGenerator.addBlock_currentBB,
    IRGenerator.setTerm_currentBB, IRGenerator.setCurrentBB_currentBB,
    IRGenerator.emit_currentFunc, IRGenerator.fresh_currentFunc,
    IRGenerator.addBlock_currentFunc, IRGenerator.emit_nblocks, IRGenerator.fresh_nblocks,
    IRGenerator.addBlock_nblocks, IRGenerator.setTerm_nblocks, IRGenerator.setCurrentBB_nblocks,
    IRGenerator.fresh_nextId, IRGenerator.emit_nextId, IRGenerator.addBlock_nextId,
    IRGenerator.setTerm_nextId, IRGenerator.setCurrentBB_nextId, Value.type_inst, List.tail_cons]
  refine ⟨_, rfl, ?_, ?_, ?_, ?_, ?_, ?_, ?_⟩
  · simp [hne, hne', hne1, hne1', hne2, hne2', e1, e2, e3, e4, e5, e6, appendHead, Block.push, Block.close, fieldPtr]
  · simp [hne, hne', hne1, hne1', hne2, hne2', e1, e2, e3, e4, e5, e6, Block.push, Block.close]
  · simp [hne, hne', hne1, hne1', hne2, hne2', e1, e2, e3, e4, e5, e6, appendGrow, Block.push, Block.close, fieldPtr]
  · simp [hne, hne', hne1, hne1', hne2, hne2', e1, e2, e3, e4, e5, e6, Block.push, Block.close]
  · simp [hne, hne', hne1, hne1', hne2, hne2', e1, e2, e3, e4, e5, e6, Block.push, Block.close]
  · simp
  · simp

/-- Shape of the code emitted by `appendEpilogue` at the current block. -/
theorem appendEpilogue_shape (lenPtr newLen : Value) (endBlock : Nat) (g : IRGenerator)
    (b : Nat) (hb : g.currentBB = some b) (hty : lenPtr.Type = .Pointer newLen.Type) :
    ∃ g', appendEpilogue lenPtr newLen endBlock g = .ok ((), g') ∧
      (g'.blocks b).insts = (g.blocks b).insts ++ [.Store newLen lenPtr] ∧
      (g'.blocks b).term = some (.Br endBlock) ∧
      g'.currentBB = some endBlock ∧ g'.errors = g.errors := by
  simp only [appendEpilogue, hb, IRGenerator.NewBr, NewStore_some _ _ _ _ hty, NewTerm_some,
    Bind.bind, Except.bind, pure, Except.pure, IRGenerator.emit_currentBB]
  refine ⟨_, rfl, ?_, ?_, ?_, ?_⟩ <;> simp [Block.push, Block.close]

/-- Meaning of the head code of `append` on a slice at `base`, `path` whose
length and capacity fields hold `L` and `C`. -/
theorem appendHead_semantics (m : Machine) (n : Nat) (st : Ty) (sliceArg : Value) (count : Nat)
    (base : Base) (path : List Int) (L C : Int)
    (hfresh : ∀ id t, sliceArg = .Inst id t → id < n)
    (hptr : m.eval sliceArg = .ptr base path)
    (hL : m.load base (path ++ [1]) = .int L) (hC : m.load base (path ++ [2]) = .int C) :
    (m.run (appendHead n st sliceArg count)).reg n = .ptr base (path ++ [1]) ∧
    (m.run (appendHead n st sliceArg count)).reg (n + 2) = .ptr base (path ++ [2]) ∧
    (m.run (appendHead n st sliceArg count)).reg (n + 3) = .int C ∧
    (m.run (appendHead n st sliceArg count)).reg (n + 4) = .int (wrap 32 (L + wrap 32 count)) ∧
    (m.run (appendHead n st sliceArg count)).reg (n + 5)
      = .int (if wrap 32 (L + wrap 32 count) > C then 1 else 0) ∧
    (∀ b p, (m.run (appendHead n st sliceArg count)).load b p = m.load b p) := by
  have h0 : ∀ t, sliceArg ≠ .Inst n t := fun t e => Nat.lt_irrefl _ (hfresh n t e)
  have h1 : ∀ t, sliceArg ≠ .Inst (n + 1) t := fun t e => by
    have := hfresh (n + 1) t e
    omega
  simp [appendHead, Machine.run, Machine.exec, hptr, hL, hC, eval_setReg, h0, h1, eval_inst,
    eval_constInt, reg_setReg_same, reg_setReg_ne, Ty.bits, load_setReg, gepPath, intsOf,
    shiftPath, wrap_zero, wrap_one, wrap_two, evalBin, evalICmp, Value.type_inst]

/-- Meaning of the block `realloc`: the capacity field receives the larger
of the doubled capacity and the new length. -/
theorem appendGrow_semantics (m : Machine) (n : Nat) (st : Ty) (base : Base) (path : List Int)
    (C len : Int)
    (hcap : m.reg (n + 2) = .ptr base (path ++ [2])) (hC : m.reg (n + 3) = .int C)
    (hlen : m.reg (n + 4) = .int len) :
    (m.run (appendGrow n st)).load base (path ++ [2])
      = .int (if wrap 32 (C * 2) < len then len else wrap 32 (C * 2)) ∧
    (m.run (appendGrow n st)).reg n = m.reg n ∧
    (m.run (appendGrow n st)).reg (n + 4) = .int len := by
  simp [appendGrow, Machine.run, Machine.exec, hcap, hC, hlen, eval_inst,
    eval_constInt, reg_setReg_same, reg_setReg_ne, Ty.bits, load_setReg, load_store_same,
    reg_store, wrap_two, evalBin, evalICmp, Value.type_inst]
  split <;> simp_all

/-- Meaning of the final store of `append`: the length field receives the
new length. -/
theorem appendStoreLen_semantics (m : Machine) (n : Nat) (st : Ty) (base : Base)
    (path : List Int) (len : Int)
    (hptr : m.reg n = .ptr base (path ++ [1])) (hlen : m.reg (n + 4) = .int len) :
    (m.exec (appendStoreLen n st)).load base (path ++ [1]) = .int len := by
  simp [appendStoreLen, Machine.exec, eval_inst, hptr, hlen, load_store_same]

/-! ### The tagged switch -/

theorem taggedSwitchValues_nil (i : Nat) (sv : Value) (cbs : List Nat) (cur : Option Nat)
    (g : IRGenerator) : taggedSwitchValues [] i sv cbs cur g = .ok (cur, g) := rfl

theorem taggedSwitchValues_literal (v : Int) (rest : List Expression) (i : Nat) (sv : Value)
    (cbs : List Nat) (cur : Option Nat) (g : IRGenerator) :
    taggedSwitchValues (.IntegerLiteral v :: rest) i sv cbs cur g =
      (do
        let (cmp, g) ← g.NewICmp cur .EQ sv (.ConstInt .I32 v)
        let (nextBlock, g) ← g.NewBlock g.currentFunc ("switch.next." ++ toString i)
        let (_, g) ← g.NewCondBr cur cmp (cbs.getD i 0) nextBlock
        taggedSwitchValues rest i sv cbs (some nextBlock) g) := rfl

theorem taggedSwitchCases_nil (i : Nat) (sv : Value) (cbs : List Nat) (cur : Option Nat)
    (g : IRGenerator) : taggedSwitchCases [] i sv cbs cur g = .ok (cur, g) := rfl

theorem taggedSwitchCases_cons (isDefault : Bool) (values : List Expression)
    (body : List Statement) (rest : List CaseClause) (i : Nat) (sv : Value) (cbs : List Nat)
    (cur : Option Nat) (g : IRGenerator) :
    taggedSwitchCases (.mk isDefault values body :: rest) i sv cbs cur g =
      (if isDefault then taggedSwitchCases rest (i + 1) sv cbs cur g
      else do
        let (currentBlock, g) ← taggedSwitchValues values i sv cbs cur g
        taggedSwitchCases rest (i + 1) sv cbs currentBlock g) := rfl

theorem chainFold_append (sv : Value) (cbs : List Nat) (xs ys : List (Nat × Int)) :
    ∀ (cur : Option Nat) (g : IRGenerator),
      chainFold sv cbs (xs ++ ys) cur g =
        (chainFold sv cbs xs cur g >>= fun r => chainFold sv cbs ys r.1 r.2) := by
  induction xs with
  | nil => intro cur g; rfl
  | cons x xs ih =>
    intro cur g
    obtain ⟨i, v⟩ := x
    simp only [List.cons_append, chainFold, bind_assoc]
    refine bind_congr fun p => ?_
    refine bind_congr fun p2 => ?_
    refine bind_congr fun p3 => ?_
    exact ih _ _

theorem taggedSwitchValues_eq (sv : Value) (cbs : List Nat) (i : Nat) (vs : List Int) :
    ∀ (cur : Option Nat) (g : IRGenerator),
      taggedSwitchValues (vs.map Expression.IntegerLiteral) i sv cbs cur g
        = chainFold sv cbs (vs.map fun v => (i, v)) cur g := by
  induction vs with
  | nil => intro cur g; rfl
  | cons v vs ih =>
    intro cur g
    simp only [List.map_cons, taggedSwitchValues_literal, chainFold]
    refine bind_congr fun p => ?_
    refine bind_congr fun p2 => ?_
    refine bind_congr fun p3 => ?_
    exact ih _ _

theorem taggedSwitchCases_eq (sv : Value) (cbs : List Nat)
    (cs : List (Bool × List Int × List Statement)) :
    ∀ (i : Nat) (cur : Option Nat) (g : IRGenerator),
      taggedSwitchCases (cs.map literalClause) i sv cbs cur g
        = chainFold sv cbs (comparisons (cs.map fun c => (c.1, c.2.1)) i) cur g := by
  induction cs with
  | nil => intro i cur g; rfl
  | cons c cs ih =>
    intro i cur g
    obtain ⟨d, vs, body⟩ := c
    simp only [List.map_cons, literalClause, taggedSwitchCases_cons, comparisons]
    cases d with
    | true => simpa using ih (i + 1) cur g
    | false =>
      simp only [Bool.false_eq_true, if_false, chainFold_append, taggedSwitchValues_eq]
      refine bind_congr fun p => ?_
      exact ih _ _ _

theorem chainFold_cons_some (sv : Value) (cbs : List Nat) (i : Nat) (v : Int)
    (rest : List (Nat × Int)) (cur f : Nat) (g : IRGenerator) (hf : g.currentFunc = some f)
    (hsv : sv.Type.IsInt = true) :
    chainFold sv cbs ((i, v) :: rest) (some cur) g =
      chainFold sv cbs rest (some g.nblocks)
        ((((g.emit cur (.ICmp g.nextId .EQ sv (.ConstInt .I32 v))).fresh.addBlock f
          ("switch.next." ++ toString i)).setTerm cur
            (.CondBr (.Inst g.nextId .I1) (cbs.getD i 0) g.nblocks))) := by
  simp only [chainFold, NewICmp_int _ _ _ _ _ hsv, IRGenerator.NewCondBr, NewInst_some,
    NewTerm_some,
    Bind.bind, Except.bind, IRGenerator.fresh_currentFunc, IRGenerator.emit_currentFunc, hf,
    NewBlock_some, IRGenerator.fresh_nblocks, IRGenerator.emit_nblocks]

theorem chainStep_compare (B : Nat → Block) (cur : Nat) (insts : List Inst) (id : Nat)
    (x y : Int) (tx ty tc : Ty) (tt ff : Nat) (name : String)
    (h : B cur = ⟨name, insts ++ [.ICmp id .EQ (.ConstInt tx x) (.ConstInt ty y)],
      some (.CondBr (.Inst id tc) tt ff)⟩) :
    chainStep B cur = some (if x = y then tt else ff) := by
  simp [chainStep, h]

theorem chainWalk_stop (B : Nat → Block) (stop : Nat → Bool) (k c : Nat)
    (h : stop c = true) : chainWalk B stop k c = some c := by
  cases k <;> simp [chainWalk, h]

theorem chainFold_walk (t : Int) (cbs : List Nat) (dflt f : Nat) (stop : Nat → Bool) :
    ∀ (comps : List (Nat × Int)) (cur : Nat) (g : IRGenerator),
      g.currentFunc = some f → cur < g.nblocks →
      ∃ last g', chainFold (.ConstInt .I32 t) cbs comps (some cur) g = .ok (some last, g') ∧
        g'.nblocks = g.nblocks + comps.length ∧
        g'.currentFunc = some f ∧ g'.currentBB = g.currentBB ∧ g'.errors = g.errors ∧
        last < g'.nblocks ∧ (last = cur ∨ g.nblocks ≤ last) ∧
        (∀ c, c < g.nblocks → c ≠ cur → g'.blocks c = g.blocks c) ∧
        (∀ B : Nat → Block,
          (∀ c, (c = cur ∨ g.nblocks ≤ c) → c < g'.nblocks → c ≠ last → B c = g'.blocks c) →
          chainStep B last = some dflt → stop dflt = true →
          (∀ c, (c = cur ∨ g.nblocks ≤ c) → c < g'.nblocks → stop c = false) →
          (∀ p ∈ comps, stop (cbs.getD p.1 0) = true) →
          chainWalk B stop (comps.length + 1) cur = some (chainTarget t cbs dflt comps)) := by
  intro comps
  induction comps with
  | nil =>
    intro cur g hf hlt
    refine ⟨cur, g, rfl, rfl, hf, rfl, rfl, hlt, Or.inl rfl, fun _ _ _ => rfl, ?_⟩
    intro B _ hstep hd hs _
    simp [chainWalk, hs cur (Or.inl rfl) hlt, hstep, hd, chainTarget]
  | cons p rest ih =>
    intro cur g hf hlt
    obtain ⟨i, v⟩ := p
    rw [chainFold_cons_some (.ConstInt .I32 t) _ _ _ _ _ f _ hf rfl]
    have hne : cur ≠ g.nblocks := Nat.ne_of_lt hlt
    obtain ⟨last, g', hfold, hn, hf', hcb, herr, hlast, hl2, hframe, hwalk⟩ :=
      ih g.nblocks (((g.emit cur (.ICmp g.nextId .EQ (.ConstInt .I32 t) (.ConstInt .I32 v))).fresh.addBlock f
          ("switch.next." ++ toString i)).setTerm cur
            (.CondBr (.Inst g.nextId .I1) (cbs.getD i 0) g.nblocks)) (by simp [hf]) (by simp)
    simp only [IRGenerator.setTerm_nblocks, IRGenerator.addBlock_nblocks,
      IRGenerator.fresh_nblocks, IRGenerator.emit_nblocks, IRGenerator.setTerm_currentBB,
      IRGenerator.addBlock_currentBB, IRGenerator.fresh_currentBB, IRGenerator.emit_currentBB,
      IRGenerator.setTerm_errors, IRGenerator.addBlock_errors, IRGenerator.fresh_errors,
      IRGenerator.emit_errors] at hn hcb herr hl2 hwalk hframe
    have hlast' : g.nblocks ≤ last := by omega
    have hcur : g'.blocks cur = ⟨(g.blocks cur).name,
        (g.blocks cur).insts ++ [.ICmp g.nextId .EQ (.ConstInt .I32 t) (.ConstInt .I32 v)],
        some (.CondBr (.Inst g.nextId .I1) (cbs.getD i 0) g.nblocks)⟩ := by
      rw [hframe cur (by omega) hne]
      simp [hne, Block.push, Block.close]
    refine ⟨last, g', hfold, by simp [hn]; omega, hf', hcb, herr, hlast, Or.inr hlast', ?_, ?_⟩
    · intro c hc hcne
      rw [hframe c (by omega) (by omega)]
      simp [hcne, Nat.ne_of_lt hc]
    · intro B hB hstep hd hs hcase
      have hBcur : B cur = g'.blocks cur :=
        hB cur (Or.inl rfl) (by omega) (by omega)
      have hstep1 := chainStep_compare B cur _ _ _ _ _ _ _ _ _ _ (hBcur.trans hcur)
      have hscur : stop cur = false := hs cur (Or.inl rfl) (by omega)
      simp only [List.length_cons, chainWalk, hscur, Bool.false_eq_true, if_false, hstep1]
      by_cases htv : t = v
      · have hci : stop (cbs.getD i 0) = true := hcase (i, v) (List.mem_cons_self _ _)
        simp only [htv, if_true, chainTarget, hci]
      · simp only [htv, if_false, chainTarget]
        refine hwalk B ?_ hstep hd ?_ ?_
        · intro c hc1 hc2 hc3
          exact hB c (Or.inr (by omega)) hc2 hc3
        · intro c hc1 hc2
          exact hs c (Or.inr (by omega)) hc2
        · intro p hp
          exact hcase p (List.mem_cons_of_mem _ hp)

theorem newCaseBlocks_spec (f : Nat) (suffix : String) :
    ∀ (cs : List CaseClause) (i : Nat) (d : Option Nat) (g : IRGenerator),
      g.currentFunc = some f →
      ∃ g', newCaseBlocks cs i suffix d g
          = .ok ((List.range' g.nblocks cs.length, defaultOf cs g.nblocks d), g') ∧
        g'.nblocks = g.nblocks + cs.length ∧ g'.currentFunc = some f ∧
        g'.currentBB = g.currentBB ∧ g'.errors = g.errors ∧ g'.nextId = g.nextId ∧
        (∀ c, c < g.nblocks → g'.blocks c = g.blocks c) ∧
        (∀ j, j < cs.length → (g'.blocks (g.nblocks + j)).insts = [] ∧
          (g'.blocks (g.nblocks + j)).term = none) := by
  intro cs
  induction cs with
  | nil =>
    intro i d g hf
    exact ⟨g, rfl, rfl, hf, rfl, rfl, rfl, fun _ _ => rfl, fun j hj => absurd hj (by simp)⟩
  | cons c cs ih =>
    intro i d g hf
    by_cases hd : c.isDefault = true
    · obtain ⟨g', h, hn, hf', hb', he', hi', hfr, hnew⟩ :=
        ih (i + 1) (some g.nblocks) (g.addBlock f ("switch.default." ++ suffix)) (by simp [hf])
      simp only [IRGenerator.addBlock_nblocks, IRGenerator.addBlock_currentBB,
        IRGenerator.addBlock_errors, IRGenerator.addBlock_nextId] at h hn hb' he' hi' hfr hnew
      refine ⟨g', ?_, by simp [hn]; omega, hf', hb', he', hi', ?_, ?_⟩
      · simp [newCaseBlocks, hd, hf, h, Bind.bind, Except.bind, pure, Except.pure,
          List.range'_succ, defaultOf]
      · intro c' hc'
        rw [hfr c' (by omega)]
        simp [Nat.ne_of_lt hc']
      · intro j hj
        cases j with
        | zero =>
          have := hfr g.nblocks (by omega)
          simp [this]
        | succ j =>
          have := hnew j (by simpa using hj)
          simpa [Nat.add_assoc, Nat.add_comm 1 j] using this
    · obtain ⟨g', h, hn, hf', hb', he', hi', hfr, hnew⟩ :=
        ih (i + 1) d (g.addBlock f ("switch.case." ++ toString i ++ "." ++ suffix))
          (by simp [hf])
      simp only [IRGenerator.addBlock_nblocks, IRGenerator.addBlock_currentBB,
        IRGenerator.addBlock_errors, IRGenerator.addBlock_nextId] at h hn hb' he' hi' hfr hnew
      refine ⟨g', ?_, by simp [hn]; omega, hf', hb', he', hi', ?_, ?_⟩
      · simp [newCaseBlocks, hd, hf, h, Bind.bind, Except.bind, pure, Except.pure,
          List.range'_succ, defaultOf]
      · intro c' hc'
        rw [hfr c' (by omega)]
        simp [Nat.ne_of_lt hc']
      · intro j hj
        cases j with
        | zero =>
          have := hfr g.nblocks (by omega)
          simp [this]
        | succ j =>
          have := hnew j (by simpa using hj)
          simpa [Nat.add_assoc, Nat.add_comm 1 j] using this

theorem switchBodies_nil (i : Nat) (cbs : List Nat) (e : Nat) (g : IRGenerator) :
    switchBodies [] i cbs e g = .ok ((), g) := rfl

theorem switchBodies_cons (d : Bool) (vs : List Expression) (body : List Statement)
    (rest : List CaseClause) (i : Nat) (cbs : List Nat) (e : Nat) (g : IRGenerator) :
    switchBodies (.mk d vs body :: rest) i cbs e g =
      (do
        let (_, g) ← caseBody body (g.setCurrentBB (some (cbs.getD i 0)))
        let (_, g) ← g.brIfOpen e
        switchBodies rest (i + 1) cbs e g) := rfl

theorem caseBody_nil (g : IRGenerator) : caseBody [] g = .ok ((), g) := rfl

theorem chainTarget_map (t : Int) (cbs : List Nat) (dflt i : Nat) (rest : List (Nat × Int)) :
    ∀ vs : List Int, chainTarget t cbs dflt ((vs.map fun v => (i, v)) ++ rest)
      = if t ∈ vs then cbs.getD i 0 else chainTarget t cbs dflt rest := by
  intro vs
  induction vs with
  | nil => simp
  | cons v vs ih =>
    rw [List.map_cons, List.cons_append, chainTarget, ih]
    by_cases h : t = v
    · simp [h]
    · simp [h]

theorem chainTarget_firstMatch (t : Int) (cbs : List Nat) (dflt : Nat) :
    ∀ (hs : List (Bool × List Int)) (i : Nat),
      chainTarget t cbs dflt (comparisons hs i) =
        match firstMatch t hs i with
        | some k => cbs.getD k 0
        | none => dflt := by
  intro hs
  induction hs with
  | nil => intro i; rfl
  | cons h hs ih =>
    intro i
    obtain ⟨d, vs⟩ := h
    cases d with
    | true => simpa [comparisons, firstMatch] using ih (i + 1)
    | false =>
      rw [comparisons, firstMatch]
      simp only [Bool.false_eq_true, if_false, chainTarget_map, Bool.not_false, true_and]
      by_cases hc : t ∈ vs
      · rw [if_pos hc, if_pos hc]
      · rw [if_neg hc, if_neg hc]
        exact ih (i + 1)

theorem firstMatch_lt (t : Int) :
    ∀ (hs : List (Bool × List Int)) (i k : Nat), firstMatch t hs i = some k →
      i ≤ k ∧ k < i + hs.length := by
  intro hs
  induction hs with
  | nil => intro i k h; cases h
  | cons h hs ih =>
    intro i k hk
    obtain ⟨d, vs⟩ := h
    simp only [firstMatch] at hk
    split at hk
    · cases hk; simp
    · have := ih (i + 1) k hk
      simp; omega

theorem comparisons_index :
    ∀ (hs : List (Bool × List Int)) (i : Nat) (p : Nat × Int), p ∈ comparisons hs i →
      i ≤ p.1 ∧ p.1 < i + hs.length := by
  intro hs
  induction hs with
  | nil => intro i p h; cases h
  | cons h hs ih =>
    intro i p hp
    obtain ⟨d, vs⟩ := h
    simp only [comparisons, List.mem_append] at hp
    rcases hp with hp | hp
    · split at hp
      · cases hp
      · simp only [List.mem_map] at hp
        obtain ⟨v, _, rfl⟩ := hp
        simp
    · have := ih (i + 1) p hp
      simp; omega

theorem defaultOf_range :
    ∀ (cs : List CaseClause) (n : Nat) (d : Option Nat) (x : Nat),
      defaultOf cs n d = some x → d = some x ∨ (n ≤ x ∧ x < n + cs.length) := by
  intro cs
  induction cs with
  | nil => intro n d x h; exact Or.inl h
  | cons c cs ih =>
    intro n d x h
    simp only [defaultOf] at h
    rcases ih (n + 1) _ x h with h1 | h1
    · split at h1
      · cases h1; right; simp
      · exact Or.inl h1
    · right; simp; omega

theorem generateStatement_switch_literal (t : Int) (cases : List CaseClause) (g : IRGenerator) :
    generateStatement (.SwitchStatement (some (.IntegerLiteral t)) cases) g =
      (if g.currentFunc.isNone then
        .ok ((), g.ReportError "Geçerli bir fonksiyon yok, switch ifadesi değerlendirilemiyor")
      else do
        let g := g.nextLabel
        let labelSuffix := toString g.labelCounter
        let (endBlock, g) ← g.NewBlock g.currentFunc ("switch.end." ++ labelSuffix)
        let ((caseBlocks, defaultBlock), g) ← newCaseBlocks cases 0 labelSuffix none g
        let (currentBlock, g) ←
          taggedSwitchCases cases 0 (.ConstInt .I32 t) caseBlocks g.currentBB g
        let (_, g) ← g.NewBr currentBlock (defaultBlock.getD endBlock)
        let (_, g) ← switchBodies cases 0 caseBlocks endBlock g
        pure ((), g.setCurrentBB (some endBlock))) := rfl

/-! ### Built-in calls, the driver and the short declaration -/

/-- Unfolding of `generateMakeCall` on a non-empty argument list. -/
theorem generateMakeCall_cons (typeExpr : Expression) (rest : List Expression)
    (g : IRGenerator) :
    generateMakeCall (typeExpr :: rest) g =
      (if rest.length + 1 > 3 then
        failWith g ("make() fonksiyonu 1-3 argüman alır, " ++ toString (rest.length + 1) ++ " verildi")
      else if g.currentBB.isNone then
        failWith g "Geçerli bir blok yok, make() çağrısı yapılamıyor"
      else
        match typeExpr with
        | .ArrayType size elementTypeExpr =>
          if size.isSome then
            failWith g "make() fonksiyonu array tipi ile kullanılamaz, slice tipi kullanın"
          else
            let elementType : Ty :=
              match elementTypeExpr with
              | .Identifier name => (lookup name g.typeTable).getD .I32
              | _ => .I32
            match rest with
            | [] => failWith g "make() slice için length argümanı gerekli"
            | lengthExpr :: rest2 => do
              let (length, g) ← generateExpression lengthExpr g
              let (capacity, g) ←
                match rest2 with
                | capacityExpr :: _ => generateExpression capacityExpr g
                | [] => pure (length, g)
              makeSlice elementType length capacity g
        | other =>
          failWith g ("make() fonksiyonu desteklenmeyen tip ile kullanıldı: " ++ other.goType)) := by
  cases typeExpr <;> rcases rest with _ | ⟨l, _ | ⟨c, r⟩⟩ <;> rfl

/-- An unbound identifier as a statement reports one diagnostic. -/
theorem generateStatement_unbound (name : String) (g : IRGenerator)
    (h : lookup name g.symbolTable = none) :
    generateStatement (identifierStatement name) g
      = .ok ((), g.ReportError (unboundMessage name)) := by
  have e : generateStatement (identifierStatement name) g =
      (do
        let (_, g) ← generateIdentifier name g
        pure ((), g)) := rfl
  rw [e]
  simp [generateIdentifier, h, Bind.bind, Except.bind, pure, Except.pure, unboundMessage]

/-- A list of identifier statements in an empty environment reports one
diagnostic per statement, in order, and changes nothing else. -/
theorem generateStatements_unbound :
    ∀ (names : List String) (g : IRGenerator), g.symbolTable = [] →
      ∃ g', generateStatements (names.map identifierStatement) g = .ok ((), g') ∧
        g'.errors = g.errors ++ names.map unboundMessage ∧
        g'.module = g.module ∧ g'.symbolTable = [] := by
  intro names
  induction names with
  | nil => intro g h; exact ⟨g, rfl, by simp, rfl, h⟩
  | cons n names ih =>
    intro g h
    obtain ⟨g', h1, h2, h3, h4⟩ := ih (g.ReportError (unboundMessage n)) (by simpa using h)
    refine ⟨g', ?_, by simpa using h2, by simpa using h3, h4⟩
    simp only [List.map_cons, generateStatements]
    rw [generateStatement_unbound n g (by simp [h, lookup])]
    exact h1

/-- The method `createMainFunction` returns and reports nothing. -/
theorem createMainFunction_spec (g : IRGenerator) :
    ∃ g', createMainFunction g = .ok ((), g') ∧ g'.errors = g.errors := by
  refine ⟨((g.addFunc "main" .I32 []).addBlock g.nfuncs "entry").setTerm g.nblocks
    (.Ret (.ConstInt .I32 0)), ?_, by simp⟩
  simp [createMainFunction, IRGenerator.NewFunc, IRGenerator.NewRet]

/-- With a diagnostic already present `GenerateProgram` stops after the
reset of the module and the definition of the basic types. -/
theorem GenerateProgram_started (p : Program) (g : IRGenerator) (h : g.errors ≠ []) :
    GenerateProgram p g = .ok (none, defineBasicTypes g.resetModule) := by
  have hl : (defineBasicTypes g.resetModule).errors.length > 0 := by
    simpa using List.length_pos.mpr h
  unfold GenerateProgram
  simp only [hl, if_true]

/-- Without a diagnostic present `GenerateProgram` lowers the statements;
when a diagnostic has been reported it returns no module, and otherwise it
prints the module. -/
theorem GenerateProgram_lowered (p : Program) (g g1 : IRGenerator) (h0 : g.errors = [])
    (h1 : generateStatements p (defineBasicTypes g.resetModule) = .ok ((), g1)) :
    ∃ g2, GenerateProgram p g =
        (if g1.errors = [] then g2.moduleString.map fun m => (some m, g2)
        else .ok (none, g2)) ∧
      g2.errors = g1.errors := by
  have hl : ¬ (defineBasicTypes g.resetModule).errors.length > 0 := by simp [h0]
  have hmain : ∃ g2, (if (g1.getFunction "main").isNone then createMainFunction g1
      else .ok ((), g1)) = .ok ((), g2) ∧ g2.errors = g1.errors := by
    split
    · exact createMainFunction_spec g1
    · exact ⟨g1, rfl, rfl⟩
  obtain ⟨g2, h2, h3⟩ := hmain
  refine ⟨g2, ?_, h3⟩
  unfold GenerateProgram
  simp only [hl, if_false, h1, h2, h3]
  by_cases he : g1.errors = []
  · simp [he]
  · have : g1.errors.length > 0 := List.length_pos.mpr he
    simp [he, this]

/-- The printer returns the module itself, and only when no block of the
functions of the module lacks a terminator. -/
theorem moduleString_ok (g : IRGenerator) (m : Module) (h : g.moduleString = .ok m) :
    m = g.module ∧ openBlocks g g.module = [] := by
  unfold IRGenerator.moduleString at h
  split at h
  · cases h
  · rename_i hn
    cases h
    exact ⟨rfl, List.head?_eq_none_iff.mp hn⟩

/-- Without open blocks every block of every function of the module has a
terminator. -/
theorem openBlocks_nil (g : IRGenerator) (m : Module) (h : openBlocks g m = []) :
    ∀ f ∈ m.funcs, ∀ b ∈ (g.funcs f).blocks, ∃ t, (g.blocks b).term = some t := by
  intro f hf b hb
  unfold openBlocks at h
  have h1 := List.flatten_eq_nil_iff.mp h _ (List.mem_map_of_mem _ hf)
  have h2 := List.filter_eq_nil_iff.mp h1 (g.blocks b)
    (by unfold IRGenerator.blocksOf; exact List.mem_map_of_mem _ hb)
  cases ht : (g.blocks b).term with
  | none => rw [ht] at h2; simp at h2
  | some t => exact ⟨t, rfl⟩

/-- Unfolding of `generateExpression` on a short declaration. -/
theorem generateExpression_shortDecl (x : String) (e : Expression) (g : IRGenerator) :
    generateExpression (shortDecl x e) g =
      (if (lookup x g.symbolTable).isSome then
        failWith g ("Değişken zaten tanımlı: " ++ x)
      else do
        let (rv, g) ← generateExpression e g
        match rv with
        | none => pure (none, g)
        | some rv =>
          if g.currentFunc.isNone then
            failWith g "Kısa değişken tanımlama sadece fonksiyon içinde kullanılabilir"
          else if g.currentBB.isNone then
            failWith g "Geçerli bir blok yok, değişken tanımlanamıyor"
          else do
            let (alloca, g) ← g.NewAlloca g.currentBB rv.Type x
            let g := g.bindSymbol x alloca
            let (_, g) ← g.NewStore g.currentBB rv alloca
            pure (some rv, g)) := rfl

/-! ### Lowering only extends the generator

The relation `Grows` is kept by every step of the lowering; the proofs walk
through the code of each method step by step, and the class `Ext` follows
the assignments in between. -/

set_option linter.unusedTactic false
set_option linter.unreachableTactic false

theorem Grows.refl (g : IRGenerator) : Grows g g :=
  ⟨List.prefix_refl _, Nat.le_refl _, Nat.le_refl _, Nat.le_refl _, Nat.le_refl _,
    Nat.le_refl _, rfl, rfl⟩

theorem Grows.trans {a b c : IRGenerator} (h1 : Grows a b) (h2 : Grows b c) : Grows a c :=
  ⟨h1.errors.trans h2.errors, Nat.le_trans h1.labelCounter h2.labelCounter,
    Nat.le_trans h1.nblocks h2.nblocks, Nat.le_trans h1.nfuncs h2.nfuncs,
    Nat.le_trans h1.nglobals h2.nglobals, Nat.le_trans h1.nextId h2.nextId,
    h2.typeTable.trans h1.typeTable, h2.generateDebug.trans h1.generateDebug⟩

theorem Grows.ReportError {a g : IRGenerator} (h : Grows a g) (msg : String) :
    Grows a (g.ReportError msg) :=
  h.trans ⟨by simp, by simp, by simp, by simp, by simp, by simp, rfl, rfl⟩

theorem Grows.setCurrentBB {a g : IRGenerator} (h : Grows a g) (x : Option Nat) :
    Grows a (g.setCurrentBB x) :=
  h.trans ⟨by simp, by simp, by simp, by simp, by simp, by simp, rfl, rfl⟩

theorem Grows.setCurrentFunc {a g : IRGenerator} (h : Grows a g) (x : Option Nat) :
    Grows a (g.setCurrentFunc x) :=
  h.trans ⟨by simp, by simp, by simp, by simp, by simp, by simp, rfl, rfl⟩

theorem Grows.bindSymbol {a g : IRGenerator} (h : Grows a g) (name : String) (v : Value) :
    Grows a (g.bindSymbol name v) :=
  h.trans ⟨by simp, by simp, by simp, by simp, by simp, by simp, rfl, rfl⟩

theorem Grows.noteLazy {a g : IRGenerator} (h : Grows a g) (name : String) (fn : Nat) :
    Grows a (g.noteLazy name fn) :=
  h.trans ⟨by simp, by simp, by simp, by simp, by simp, by simp, rfl, rfl⟩

theorem Grows.nextLabel {a g : IRGenerator} (h : Grows a g) : Grows a g.nextLabel :=
  h.trans ⟨by simp, by simp, by simp, by simp, by simp, by simp, rfl, rfl⟩

theorem Grows.setModuleName {a g : IRGenerator} (h : Grows a g) (name : String) :
    Grows a (g.setModuleName name) :=
  h.trans ⟨by simp, by simp, by simp, by simp, by simp, by simp, rfl, rfl⟩

theorem Grows.fresh {a g : IRGenerator} (h : Grows a g) : Grows a g.fresh :=
  h.trans ⟨by simp, by simp, by simp, by simp, by simp, by simp, rfl, rfl⟩

theorem Grows.emit {a g : IRGenerator} (h : Grows a g) (b : Nat) (i : Inst) :
    Grows a (g.emit b i) :=
  h.trans ⟨by simp, by simp, by simp, by simp, by simp, by simp, rfl, rfl⟩

theorem Grows.setTerm {a g : IRGenerator} (h : Grows a g) (b : Nat) (t : Terminator) :
    Grows a (g.setTerm b t) :=
  h.trans ⟨by simp, by simp, by simp, by simp, by simp, by simp, rfl, rfl⟩

theorem Grows.addBlock {a g : IRGenerator} (h : Grows a g) (f : Nat) (name : String) :
    Grows a (g.addBlock f name) :=
  h.trans ⟨by simp, by simp, by simp, by simp, by simp, by simp, rfl, rfl⟩

theorem Grows.addFunc {a g : IRGenerator} (h : Grows a g) (name : String) (retType : Ty)
    (params : List Param) : Grows a (g.addFunc name retType params) :=
  h.trans ⟨by simp, by simp, by simp, by simp, by simp, by simp, rfl, rfl⟩

theorem Grows.setFunc {a g : IRGenerator} (h : Grows a g) (f : Nat) (fn : Func) :
    Grows a (g.setFunc f fn) :=
  h.trans ⟨by simp, by simp, by simp, by simp, by simp, by simp, rfl, rfl⟩

theorem Grows.setVariadic {a g : IRGenerator} (h : Grows a g) (f : Nat) :
    Grows a (g.setVariadic f) := by
  unfold IRGenerator.setVariadic
  split
  · exact h.setFunc _ _
  · exact h

theorem Grows.appendParam {a g : IRGenerator} (h : Grows a g) (f : Nat) (p : Param) :
    Grows a (g.appendParam f p) := h.setFunc _ _

theorem Grows.setParamName {a g : IRGenerator} (h : Grows a g) (f i : Nat) (name : String) :
    Grows a (g.setParamName f i name) := h.setFunc _ _

theorem Grows.addGlobal {a g : IRGenerator} (h : Grows a g) (name : String) (init : Value) :
    Grows a (g.addGlobal name init) :=
  h.trans ⟨by simp, by simp, by simp, by simp, by simp, by simp, rfl, rfl⟩

theorem Grows.setGlobalInit {a g : IRGenerator} (h : Grows a g) (id : Nat) (init : Value) :
    Grows a (g.setGlobalInit id init) :=
  h.trans ⟨by simp, by simp, by simp, by simp, by simp, by simp, rfl, rfl⟩

theorem Grows.appendParams {a g : IRGenerator} (h : Grows a g) (names : List String) (fn : Nat) :
    Grows a (appendParams names fn g) := by
  unfold Irgen.appendParams
  induction names generalizing g with
  | nil => exact h
  | cons n names ih => exact ih (h.appendParam _ _)

theorem Grows.foldlAppendParam {a g : IRGenerator} (h : Grows a g) (names : List String)
    (fn : Nat) : Grows a (names.foldl (fun g _ => g.appendParam fn ⟨"", .I32⟩) g) := by
  induction names generalizing g with
  | nil => exact h
  | cons n names ih => exact ih (h.appendParam _ _)

instance Ext.refl (g : IRGenerator) : Ext g g := ⟨Grows.refl g⟩

instance Ext.ReportError (g x : IRGenerator) (msg : String) [i : Ext g x] :
    Ext g (x.ReportError msg) := ⟨i.grows.ReportError msg⟩

instance Ext.setCurrentBB (g x : IRGenerator) (b : Option Nat) [i : Ext g x] :
    Ext g (x.setCurrentBB b) := ⟨i.grows.setCurrentBB b⟩

instance Ext.setCurrentFunc (g x : IRGenerator) (f : Option Nat) [i : Ext g x] :
    Ext g (x.setCurrentFunc f) := ⟨i.grows.setCurrentFunc f⟩

instance Ext.bindSymbol (g x : IRGenerator) (name : String) (v : Value) [i : Ext g x] :
    Ext g (x.bindSymbol name v) := ⟨i.grows.bindSymbol name v⟩

instance Ext.noteLazy (g x : IRGenerator) (name : String) (fn : Nat) [i : Ext g x] :
    Ext g (x.noteLazy name fn) := ⟨i.grows.noteLazy name fn⟩

instance Ext.nextLabel (g x : IRGenerator) [i : Ext g x] : Ext g x.nextLabel :=
  ⟨i.grows.nextLabel⟩

instance Ext.setModuleName (g x : IRGenerator) (name : String) [i : Ext g x] :
    Ext g (x.setModuleName name) := ⟨i.grows.setModuleName name⟩

instance Ext.fresh (g x : IRGenerator) [i : Ext g x] : Ext g x.fresh := ⟨i.grows.fresh⟩

instance Ext.emit (g x : IRGenerator) (b : Nat) (n : Inst) [i : Ext g x] : Ext g (x.emit b n) :=
  ⟨i.grows.emit b n⟩

instance Ext.setTerm (g x : IRGenerator) (b : Nat) (t : Terminator) [i : Ext g x] :
    Ext g (x.setTerm b t) := ⟨i.grows.setTerm b t⟩

instance Ext.addBlock (g x : IRGenerator) (f : Nat) (name : String) [i : Ext g x] :
    Ext g (x.addBlock f name) := ⟨i.grows.addBlock f name⟩

instance Ext.addFunc (g x : IRGenerator) (name : String) (retType : Ty) (params : List Param)
    [i : Ext g x] : Ext g (x.addFunc name retType params) := ⟨i.grows.addFunc name retType params⟩

instance Ext.setVariadic (g x : IRGenerator) (f : Nat) [i : Ext g x] : Ext g (x.setVariadic f) :=
  ⟨i.grows.setVariadic f⟩

instance Ext.appendParam (g x : IRGenerator) (f : Nat) (p : Param) [i : Ext g x] :
    Ext g (x.appendParam f p) := ⟨i.grows.appendParam f p⟩

instance Ext.setParamName (g x : IRGenerator) (f n : Nat) (name : String) [i : Ext g x] :
    Ext g (x.setParamName f n name) := ⟨i.grows.setParamName f n name⟩

instance Ext.addGlobal (g x : IRGenerator) (name : String) (init : Value) [i : Ext g x] :
    Ext g (x.addGlobal name init) := ⟨i.grows.addGlobal name init⟩

instance Ext.setGlobalInit (g x : IRGenerator) (id : Nat) (init : Value) [i : Ext g x] :
    Ext g (x.setGlobalInit id init) := ⟨i.grows.setGlobalInit id init⟩

instance Ext.appendParams (g x : IRGenerator) (names : List String) (fn : Nat) [i : Ext g x] :
    Ext g (appendParams names fn x) := ⟨i.grows.appendParams names fn⟩

instance Ext.foldlAppendParam (g x : IRGenerator) (names : List String) (fn : Nat)
    [i : Ext g x] : Ext g (names.foldl (fun g _ => g.appendParam fn ⟨"", .I32⟩) x) :=
  ⟨i.grows.foldlAppendParam names fn⟩

instance Ext.ite (g x y : IRGenerator) (c : Prop) [Decidable c] [i : Ext g x] [j : Ext g y] :
    Ext g (if c then x else y) := by
  split
  · exact i
  · exact j

theorem Grows.ext {a g x : IRGenerator} [i : Ext g x] (h : Grows a g) : Grows a x :=
  h.trans i.grows

theorem Grows.cut {a b c : IRGenerator} (h1 : Grows a b) (h2 : Grows a b → Grows a c) :
    Grows a c := h2 h1

theorem bind_ok {α β : Type} (x : Except String α) (k : α → Except String β) (r : β) :
    (x >>= k) = .ok r ↔ ∃ a, x = .ok a ∧ k a = .ok r := by
  cases x <;> simp [Bind.bind, Except.bind]

/-- A forward step: the fact a lemma draws from a hypothesis is handed to the
rest of the proof. -/
theorem stepWith {P Q G : Prop} (e : P) (f : P → Q) (k : Q → G) : G := k (f e)

theorem ite_ok {α : Type} {c : Prop} [Decidable c] {x y r : α} (e : (if c then x else y) = r) :
    (c ∧ x = r) ∨ (¬ c ∧ y = r) := by
  split at e
  · exact Or.inl ⟨by assumption, e⟩
  · exact Or.inr ⟨by assumption, e⟩

theorem Grows.NewInst {a g x g' : IRGenerator} [Ext g x] (h : Grows a g) {blk : Option Nat}
    {mk : Nat → Inst} {ty : Ty} {v : Value} (e : x.NewInst blk mk ty = .ok (v, g')) :
    Grows a g' := by
  cases blk with
  | none => cases e
  | some b =>
    simp only [NewInst_some, Except.ok.injEq, Prod.mk.injEq] at e
    rw [← e.2]
    exact h.ext

theorem Grows.NewStore {a g x g' : IRGenerator} [Ext g x] (h : Grows a g) {blk : Option Nat}
    {src dst : Value} {v : Unit} (e : x.NewStore blk src dst = .ok (v, g')) :
    Grows a g' := by
  obtain ⟨b, rfl, rfl, -⟩ := NewStore_ok e
  exact h.ext

theorem Grows.NewTerm {a g x g' : IRGenerator} [Ext g x] (h : Grows a g) {blk : Option Nat}
    {t : Terminator} {v : Unit} (e : x.NewTerm blk t = .ok (v, g')) : Grows a g' := by
  cases blk with
  | none => cases e
  | some b =>
    simp only [NewTerm_some, Except.ok.injEq, Prod.mk.injEq] at e
    rw [← e.2]
    exact h.ext

theorem Grows.NewBlock {a g x g' : IRGenerator} [Ext g x] (h : Grows a g) {fn : Option Nat}
    {name : String} {b : Nat} (e : x.NewBlock fn name = .ok (b, g')) : Grows a g' := by
  cases fn with
  | none => cases e
  | some f =>
    simp only [NewBlock_some, Except.ok.injEq, Prod.mk.injEq] at e
    rw [← e.2]
    exact h.ext

theorem Grows.asResult {a g x g' : IRGenerator} [Ext g x] (h : Grows a g) {blk : Option Nat}
    {mk : Nat → Inst} {ty : Ty} {r : Option Value}
    (e : Irgen.asResult (x.NewInst blk mk ty) = .ok (r, g')) : Grows a g' := by
  unfold Irgen.asResult at e
  split at e
  · cases e
  · rename_i heq
    cases e
    exact h.NewInst heq

theorem Grows.failWith {a g x g' : IRGenerator} [Ext g x] (h : Grows a g) {msg : String}
    {r : Option Value} (e : Irgen.failWith x msg = .ok (r, g')) : Grows a g' := by
  cases e
  exact h.ext

theorem Grows.getOrDeclare {a g x g' : IRGenerator} [Ext g x] {name : String} {retType : Ty} {params : List Param} {variadic : Bool} {r : Nat}
    (h : Grows a g) (e : getOrDeclare name retType params variadic x = (r, g')) : Grows a g' := by
  replace h : Grows a x := h.ext
  unfold Irgen.getOrDeclare at e
  try simp only [IRGenerator.NewAlloca, IRGenerator.NewLoad, IRGenerator.NewBin, IRGenerator.NewICmp, IRGenerator.NewFCmp, IRGenerator.NewGetElementPtr, IRGenerator.funcValue, NewCall_func, IRGenerator.NewCall, IRGenerator.NewZExt, IRGenerator.NewSelect, IRGenerator.NewBr, IRGenerator.NewCondBr, IRGenerator.NewRet, IRGenerator.NewUnreachable, IRGenerator.NewFunc, IRGenerator.NewGlobalDef] at e
  repeat' (first
    | (first | (revert e; with_reducible apply (h.asResult); done) | (revert e; with_reducible apply (h.failWith); done) | (revert e; with_reducible apply (h.NewInst); done) | (revert e; with_reducible apply (h.NewStore); done) | (revert e; with_reducible apply (h.NewTerm); done) | (revert e; with_reducible apply (h.NewBlock); done) | fail)
    | (apply stepWith e; (focus (with_reducible apply (@ite_ok _ _ _ _ _ _); done)); intro e2
       clear e
       rcases e2 with ⟨_, e⟩ | ⟨_, e⟩)
    | (simp only [bind_assoc, pure_bind] at e)
    | (rw [bind_ok] at e
       obtain ⟨⟨x1, g1⟩, e1, e⟩ := e
       try dsimp only at e
       first
         | (apply stepWith e1; (focus (with_reducible apply (h.NewInst); done)); clear h; intro h) | (apply stepWith e1; (focus (with_reducible apply (h.NewStore); done)); clear h; intro h) | (apply stepWith e1; (focus (with_reducible apply (h.NewTerm); done)); clear h; intro h) | (apply stepWith e1; (focus (with_reducible apply (h.NewBlock); done)); clear h; intro h)
         | (cases e1)
         | (refine Grows.cut (b := g1) ?_ ?_ <;>
             first | (intro h2; clear h e1; rename' h2 => h) | (clear e; rename' e1 => e))
         | fail)
    | (split at e <;>
       try (rename_i heq
            first | (apply stepWith heq; (focus (with_reducible apply (h.NewInst); done)); clear h; intro h) | (apply stepWith heq; (focus (with_reducible apply (h.NewStore); done)); clear h; intro h) | (apply stepWith heq; (focus (with_reducible apply (h.NewTerm); done)); clear h; intro h) | (apply stepWith heq; (focus (with_reducible apply (h.NewBlock); done)); clear h; intro h) | fail))
    | (cases e; first | done | exact h.ext | fail)
    | (dsimp only at e)
    | fail)

instance Ext.getOrDeclare (g x : IRGenerator) (name : String) (retType : Ty) (params : List Param) (variadic : Bool) [i : Ext g x] :
    Ext g (getOrDeclare name retType params variadic x).2 :=
  ⟨i.grows.getOrDeclare rfl⟩

theorem Grows.resolveCallee {a g x g' : IRGenerator} [Ext g x] {funcName : String} {r : Value}
    (h : Grows a g) (e : resolveCallee funcName x = (r, g')) : Grows a g' := by
  replace h : Grows a x := h.ext
  unfold Irgen.resolveCallee at e
  try simp only [IRGenerator.NewAlloca, IRGenerator.NewLoad, IRGenerator.NewBin, IRGenerator.NewICmp, IRGenerator.NewFCmp, IRGenerator.NewGetElementPtr, IRGenerator.funcValue, NewCall_func, IRGenerator.NewCall, IRGenerator.NewZExt, IRGenerator.NewSelect, IRGenerator.NewBr, IRGenerator.NewCondBr, IRGenerator.NewRet, IRGenerator.NewUnreachable, IRGenerator.NewFunc, IRGenerator.NewGlobalDef] at e
  repeat' (first
    | (first | (revert e; with_reducible apply (h.asResult); done) | (revert e; with_reducible apply (h.failWith); done) | (revert e; with_reducible apply (h.NewInst); done) | (revert e; with_reducible apply (h.NewStore); done) | (revert e; with_reducible apply (h.NewTerm); done) | (revert e; with_reducible apply (h.NewBlock); done) | fail)
    | (apply stepWith e; (focus (with_reducible apply (@ite_ok _ _ _ _ _ _); done)); intro e2
       clear e
       rcases e2 with ⟨_, e⟩ | ⟨_, e⟩)
    | (simp only [bind_assoc, pure_bind] at e)
    | (rw [bind_ok] at e
       obtain ⟨⟨x1, g1⟩, e1, e⟩ := e
       try dsimp only at e
       first
         | (apply stepWith e1; (focus (with_reducible apply (h.NewInst); done)); clear h; intro h) | (apply stepWith e1; (focus (with_reducible apply (h.NewStore); done)); clear h; intro h) | (apply stepWith e1; (focus (with_reducible apply (h.NewTerm); done)); clear h; intro h) | (apply stepWith e1; (focus (with_reducible apply (h.NewBlock); done)); clear h; intro h)
         | (cases e1)
         | (refine Grows.cut (b := g1) ?_ ?_ <;>
             first | (intro h2; clear h e1; rename' h2 => h) | (clear e; rename' e1 => e))
         | fail)
    | (split at e <;>
       try (rename_i heq
            first | (apply stepWith heq; (focus (with_reducible apply (h.NewInst); done)); clear h; intro h) | (apply stepWith heq; (focus (with_reducible apply (h.NewStore); done)); clear h; intro h) | (apply stepWith heq; (focus (with_reducible apply (h.NewTerm); done)); clear h; intro h) | (apply stepWith heq; (focus (with_reducible apply (h.NewBlock); done)); clear h; intro h) | fail))
    | (cases e; first | done | exact h.ext | fail)
    | (dsimp only at e)
    | fail)

instance Ext.resolveCallee (g x : IRGenerator) (funcName : String) [i : Ext g x] :
    Ext g (resolveCallee funcName x).2 :=
  ⟨i.grows.resolveCallee rfl⟩

theorem Grows.generateStringLiteral {a g x g' : IRGenerator} [Ext g x] {value : String} {r : Value}
    (h : Grows a g) (e : generateStringLiteral value x = (r, g')) : Grows a g' := by
  replace h : Grows a x := h.ext
  unfold Irgen.generateStringLiteral at e
  try simp only [IRGenerator.NewAlloca, IRGenerator.NewLoad, IRGenerator.NewBin, IRGenerator.NewICmp, IRGenerator.NewFCmp, IRGenerator.NewGetElementPtr, IRGenerator.funcValue, NewCall_func, IRGenerator.NewCall, IRGenerator.NewZExt, IRGenerator.NewSelect, IRGenerator.NewBr, IRGenerator.NewCondBr, IRGenerator.NewRet, IRGenerator.NewUnreachable, IRGenerator.NewFunc, IRGenerator.NewGlobalDef] at e
  repeat' (first
    | (first | (revert e; with_reducible apply (h.asResult); done) | (revert e; with_reducible apply (h.failWith); done) | (revert e; with_reducible apply (h.NewInst); done) | (revert e; with_reducible apply (h.NewStore); done) | (revert e; with_reducible apply (h.NewTerm); done) | (revert e; with_reducible apply (h.NewBlock); done) | fail)
    | (apply stepWith e; (focus (with_reducible apply (@ite_ok _ _ _ _ _ _); done)); intro e2
       clear e
       rcases e2 with ⟨_, e⟩ | ⟨_, e⟩)
    | (simp only [bind_assoc, pure_bind] at e)
    | (rw [bind_ok] at e
       obtain ⟨⟨x1, g1⟩, e1, e⟩ := e
       try dsimp only at e
       first
         | (apply stepWith e1; (focus (with_reducible apply (h.NewInst); done)); clear h; intro h) | (apply stepWith e1; (focus (with_reducible apply (h.NewStore); done)); clear h; intro h) | (apply stepWith e1; (focus (with_reducible apply (h.NewTerm); done)); clear h; intro h) | (apply stepWith e1; (focus (with_reducible apply (h.NewBlock); done)); clear h; intro h)
         | (cases e1)
         | (refine Grows.cut (b := g1) ?_ ?_ <;>
             first | (intro h2; clear h e1; rename' h2 => h) | (clear e; rename' e1 => e))
         | fail)
    | (split at e <;>
       try (rename_i heq
            first | (apply stepWith heq; (focus (with_reducible apply (h.NewInst); done)); clear h; intro h) | (apply stepWith heq; (focus (with_reducible apply (h.NewStore); done)); clear h; intro h) | (apply stepWith heq; (focus (with_reducible apply (h.NewTerm); done)); clear h; intro h) | (apply stepWith heq; (focus (with_reducible apply (h.NewBlock); done)); clear h; intro h) | fail))
    | (cases e; first | done | exact h.ext | fail)
    | (dsimp only at e)
    | fail)

instance Ext.generateStringLiteral (g x : IRGenerator) (value : String) [i : Ext g x] :
    Ext g (generateStringLiteral value x).2 :=
  ⟨i.grows.generateStringLiteral rfl⟩

theorem Grows.functionReturnType {a g x g' : IRGenerator} [Ext g x] {returnType : Option Expression} {r : Ty}
    (h : Grows a g) (e : functionReturnType returnType x = (r, g')) : Grows a g' := by
  replace h : Grows a x := h.ext
  unfold Irgen.functionReturnType at e
  try simp only [IRGenerator.NewAlloca, IRGenerator.NewLoad, IRGenerator.NewBin, IRGenerator.NewICmp, IRGenerator.NewFCmp, IRGenerator.NewGetElementPtr, IRGenerator.funcValue, NewCall_func, IRGenerator.NewCall, IRGenerator.NewZExt, IRGenerator.NewSelect, IRGenerator.NewBr, IRGenerator.NewCondBr, IRGenerator.NewRet, IRGenerator.NewUnreachable, IRGenerator.NewFunc, IRGenerator.NewGlobalDef] at e
  repeat' (first
    | (first | (revert e; with_reducible apply (h.asResult); done) | (revert e; with_reducible apply (h.failWith); done) | (revert e; with_reducible apply (h.NewInst); done) | (revert e; with_reducible apply (h.NewStore); done) | (revert e; with_reducible apply (h.NewTerm); done) | (revert e; with_reducible apply (h.NewBlock); done) | fail)
    | (apply stepWith e; (focus (with_reducible apply (@ite_ok _ _ _ _ _ _); done)); intro e2
       clear e
       rcases e2 with ⟨_, e⟩ | ⟨_, e⟩)
    | (simp only [bind_assoc, pure_bind] at e)
    | (rw [bind_ok] at e
       obtain ⟨⟨x1, g1⟩, e1, e⟩ := e
       try dsimp only at e
       first
         | (apply stepWith e1; (focus (with_reducible apply (h.NewInst); done)); clear h; intro h) | (apply stepWith e1; (focus (with_reducible apply (h.NewStore); done)); clear h; intro h) | (apply stepWith e1; (focus (with_reducible apply (h.NewTerm); done)); clear h; intro h) | (apply stepWith e1; (focus (with_reducible apply (h.NewBlock); done)); clear h; intro h)
         | (cases e1)
         | (refine Grows.cut (b := g1) ?_ ?_ <;>
             first | (intro h2; clear h e1; rename' h2 => h) | (clear e; rename' e1 => e))
         | fail)
    | (split at e <;>
       try (rename_i heq
            first | (apply stepWith heq; (focus (with_reducible apply (h.NewInst); done)); clear h; intro h) | (apply stepWith heq; (focus (with_reducible apply (h.NewStore); done)); clear h; intro h) | (apply stepWith heq; (focus (with_reducible apply (h.NewTerm); done)); clear h; intro h) | (apply stepWith heq; (focus (with_reducible apply (h.NewBlock); done)); clear h; intro h) | fail))
    | (cases e; first | done | exact h.ext | fail)
    | (dsimp only at e)
    | fail)

instance Ext.functionReturnType (g x : IRGenerator) (returnType : Option Expression) [i : Ext g x] :
    Ext g (functionReturnType returnType x).2 :=
  ⟨i.grows.functionReturnType rfl⟩

theorem Grows.generateConstantExpression {a g x g' : IRGenerator} [Ext g x] {ex : Expression} {r : Option Value}
    (h : Grows a g) (e : generateConstantExpression ex x = (r, g')) : Grows a g' := by
  replace h : Grows a x := h.ext
  unfold Irgen.generateConstantExpression at e
  try simp only [IRGenerator.NewAlloca, IRGenerator.NewLoad, IRGenerator.NewBin, IRGenerator.NewICmp, IRGenerator.NewFCmp, IRGenerator.NewGetElementPtr, IRGenerator.funcValue, NewCall_func, IRGenerator.NewCall, IRGenerator.NewZExt, IRGenerator.NewSelect, IRGenerator.NewBr, IRGenerator.NewCondBr, IRGenerator.NewRet, IRGenerator.NewUnreachable, IRGenerator.NewFunc, IRGenerator.NewGlobalDef] at e
  repeat' (first
    | (first | (revert e; with_reducible apply (h.asResult); done) | (revert e; with_reducible apply (h.failWith); done) | (revert e; with_reducible apply (h.NewInst); done) | (revert e; with_reducible apply (h.NewStore); done) | (revert e; with_reducible apply (h.NewTerm); done) | (revert e; with_reducible apply (h.NewBlock); done) | fail)
    | (apply stepWith e; (focus (with_reducible apply (@ite_ok _ _ _ _ _ _); done)); intro e2
       clear e
       rcases e2 with ⟨_, e⟩ | ⟨_, e⟩)
    | (simp only [bind_assoc, pure_bind] at e)
    | (rw [bind_ok] at e
       obtain ⟨⟨x1, g1⟩, e1, e⟩ := e
       try dsimp only at e
       first
         | (apply stepWith e1; (focus (with_reducible apply (h.NewInst); done)); clear h; intro h) | (apply stepWith e1; (focus (with_reducible apply (h.NewStore); done)); clear h; intro h) | (apply stepWith e1; (focus (with_reducible apply (h.NewTerm); done)); clear h; intro h) | (apply stepWith e1; (focus (with_reducible apply (h.NewBlock); done)); clear h; intro h)
         | (cases e1)
         | (refine Grows.cut (b := g1) ?_ ?_ <;>
             first | (intro h2; clear h e1; rename' h2 => h) | (clear e; rename' e1 => e))
         | fail)
    | (split at e <;>
       try (rename_i heq
            first | (apply stepWith heq; (focus (with_reducible apply (h.generateStringLiteral); done)); clear h; intro h) | (apply stepWith heq; (focus (with_reducible apply (h.NewInst); done)); clear h; intro h) | (apply stepWith heq; (focus (with_reducible apply (h.NewStore); done)); clear h; intro h) | (apply stepWith heq; (focus (with_reducible apply (h.NewTerm); done)); clear h; intro h) | (apply stepWith heq; (focus (with_reducible apply (h.NewBlock); done)); clear h; intro h) | fail))
    | (cases e; first | done | exact h.ext | fail)
    | (dsimp only at e)
    | fail)

instance Ext.generateConstantExpression (g x : IRGenerator) (ex : Expression) [i : Ext g x] :
    Ext g (generateConstantExpression ex x).2 :=
  ⟨i.grows.generateConstantExpression rfl⟩

theorem Grows.declareGlobal {a g : IRGenerator} (h : Grows a g) (varName : String)
    (varType : Ty) (value : Option Expression) :
    Grows a (declareGlobal varName varType value g) := by
  unfold Irgen.declareGlobal
  simp only [IRGenerator.NewGlobalDef]
  split
  · split
    · rename_i heq
      exact (h.generateConstantExpression heq).ext
    · rename_i heq
      exact h.generateConstantExpression heq
  · exact h.ext

instance Ext.declareGlobal (g x : IRGenerator) (varName : String) (varType : Ty)
    (value : Option Expression) [i : Ext g x] : Ext g (declareGlobal varName varType value x) :=
  ⟨i.grows.declareGlobal varName varType value⟩

theorem Grows.generateIdentifier {a g x g' : IRGenerator} [Ext g x] {name : String} {r : Option Value}
    (h : Grows a g) (e : generateIdentifier name x = .ok (r, g')) : Grows a g' := by
  replace h : Grows a x := h.ext
  unfold Irgen.generateIdentifier at e
  try simp only [IRGenerator.NewAlloca, IRGenerator.NewLoad, IRGenerator.NewBin, IRGenerator.NewICmp, IRGenerator.NewFCmp, IRGenerator.NewGetElementPtr, IRGenerator.funcValue, NewCall_func, IRGenerator.NewCall, IRGenerator.NewZExt, IRGenerator.NewSelect, IRGenerator.NewBr, IRGenerator.NewCondBr, IRGenerator.NewRet, IRGenerator.NewUnreachable, IRGenerator.NewFunc, IRGenerator.NewGlobalDef] at e
  repeat' (first
    | (first | (revert e; with_reducible apply (h.asResult); done) | (revert e; with_reducible apply (h.failWith); done) | (revert e; with_reducible apply (h.NewInst); done) | (revert e; with_reducible apply (h.NewStore); done) | (revert e; with_reducible apply (h.NewTerm); done) | (revert e; with_reducible apply (h.NewBlock); done) | fail)
    | (apply stepWith e; (focus (with_reducible apply (@ite_ok _ _ _ _ _ _); done)); intro e2
       clear e
       rcases e2 with ⟨_, e⟩ | ⟨_, e⟩)
    | (simp only [bind_assoc, pure_bind] at e)
    | (rw [bind_ok] at e
       obtain ⟨⟨x1, g1⟩, e1, e⟩ := e
       try dsimp only at e
       first
         | (apply stepWith e1; (focus (with_reducible apply (h.NewInst); done)); clear h; intro h) | (apply stepWith e1; (focus (with_reducible apply (h.NewStore); done)); clear h; intro h) | (apply stepWith e1; (focus (with_reducible apply (h.NewTerm); done)); clear h; intro h) | (apply stepWith e1; (focus (with_reducible apply (h.NewBlock); done)); clear h; intro h)
         | (cases e1)
         | (refine Grows.cut (b := g1) ?_ ?_ <;>
             first | (intro h2; clear h e1; rename' h2 => h) | (clear e; rename' e1 => e))
         | fail)
    | (split at e <;>
       try (rename_i heq
            first | (apply stepWith heq; (focus (with_reducible apply (h.NewInst); done)); clear h; intro h) | (apply stepWith heq; (focus (with_reducible apply (h.NewStore); done)); clear h; intro h) | (apply stepWith heq; (focus (with_reducible apply (h.NewTerm); done)); clear h; intro h) | (apply stepWith heq; (focus (with_reducible apply (h.NewBlock); done)); clear h; intro h) | fail))
    | (cases e; first | done | exact h.ext | fail)
    | (dsimp only at e)
    | fail)

theorem Grows.prefixOperator {a g x g' : IRGenerator} [Ext g x] {op : String} {right : Value} {r : Option Value}
    (h : Grows a g) (e : prefixOperator op right x = .ok (r, g')) : Grows a g' := by
  replace h : Grows a x := h.ext
  unfold Irgen.prefixOperator at e
  try simp only [IRGenerator.NewAlloca, IRGenerator.NewLoad, IRGenerator.NewBin, IRGenerator.NewICmp, IRGenerator.NewFCmp, IRGenerator.NewGetElementPtr, IRGenerator.funcValue, NewCall_func, IRGenerator.NewCall, IRGenerator.NewZExt, IRGenerator.NewSelect, IRGenerator.NewBr, IRGenerator.NewCondBr, IRGenerator.NewRet, IRGenerator.NewUnreachable, IRGenerator.NewFunc, IRGenerator.NewGlobalDef] at e
  repeat' (first
    | (first | (revert e; with_reducible apply (h.asResult); done) | (revert e; with_reducible apply (h.failWith); done) | (revert e; with_reducible apply (h.NewInst); done) | (revert e; with_reducible apply (h.NewStore); done) | (revert e; with_reducible apply (h.NewTerm); done) | (revert e; with_reducible apply (h.NewBlock); done) | fail)
    | (apply stepWith e; (focus (with_reducible apply (@ite_ok _ _ _ _ _ _); done)); intro e2
       clear e
       rcases e2 with ⟨_, e⟩ | ⟨_, e⟩)
    | (simp only [bind_assoc, pure_bind] at e)
    | (rw [bind_ok] at e
       obtain ⟨⟨x1, g1⟩, e1, e⟩ := e
       try dsimp only at e
       first
         | (apply stepWith e1; (focus (with_reducible apply (h.NewInst); done)); clear h; intro h) | (apply stepWith e1; (focus (with_reducible apply (h.NewStore); done)); clear h; intro h) | (apply stepWith e1; (focus (with_reducible apply (h.NewTerm); done)); clear h; intro h) | (apply stepWith e1; (focus (with_reducible apply (h.NewBlock); done)); clear h; intro h)
         | (cases e1)
         | (refine Grows.cut (b := g1) ?_ ?_ <;>
             first | (intro h2; clear h e1; rename' h2 => h) | (clear e; rename' e1 => e))
         | fail)
    | (split at e <;>
       try (rename_i heq
            first | (apply stepWith heq; (focus (with_reducible apply (h.NewInst); done)); clear h; intro h) | (apply stepWith heq; (focus (with_reducible apply (h.NewStore); done)); clear h; intro h) | (apply stepWith heq; (focus (with_reducible apply (h.NewTerm); done)); clear h; intro h) | (apply stepWith heq; (focus (with_reducible apply (h.NewBlock); done)); clear h; intro h) | fail))
    | (cases e; first | done | exact h.ext | fail)
    | (dsimp only at e)
    | fail)

theorem Grows.generatePostfixExpression {a g x g' : IRGenerator} [Ext g x] {left : Expression} {op : String} {r : Option Value}
    (h : Grows a g) (e : generatePostfixExpression left op x = .ok (r, g')) : Grows a g' := by
  replace h : Grows a x := h.ext
  unfold Irgen.generatePostfixExpression at e
  try simp only [IRGenerator.NewAlloca, IRGenerator.NewLoad, IRGenerator.NewBin, IRGenerator.NewICmp, IRGenerator.NewFCmp, IRGenerator.NewGetElementPtr, IRGenerator.funcValue, NewCall_func, IRGenerator.NewCall, IRGenerator.NewZExt, IRGenerator.NewSelect, IRGenerator.NewBr, IRGenerator.NewCondBr, IRGenerator.NewRet, IRGenerator.NewUnreachable, IRGenerator.NewFunc, IRGenerator.NewGlobalDef] at e
  repeat' (first
    | (first | (revert e; with_reducible apply (h.asResult); done) | (revert e; with_reducible apply (h.failWith); done) | (revert e; with_reducible apply (h.NewInst); done) | (revert e; with_reducible apply (h.NewStore); done) | (revert e; with_reducible apply (h.NewTerm); done) | (revert e; with_reducible apply (h.NewBlock); done) | fail)
    | (apply stepWith e; (focus (with_reducible apply (@ite_ok _ _ _ _ _ _); done)); intro e2
       clear e
       rcases e2 with ⟨_, e⟩ | ⟨_, e⟩)
    | (simp only [bind_assoc, pure_bind] at e)
    | (rw [bind_ok] at e
       obtain ⟨⟨x1, g1⟩, e1, e⟩ := e
       try dsimp only at e
       first
         | (apply stepWith e1; (focus (with_reducible apply (h.NewInst); done)); clear h; intro h) | (apply stepWith e1; (focus (with_reducible apply (h.NewStore); done)); clear h; intro h) | (apply stepWith e1; (focus (with_reducible apply (h.NewTerm); done)); clear h; intro h) | (apply stepWith e1; (focus (with_reducible apply (h.NewBlock); done)); clear h; intro h)
         | (cases e1)
         | (refine Grows.cut (b := g1) ?_ ?_ <;>
             first | (intro h2; clear h e1; rename' h2 => h) | (clear e; rename' e1 => e))
         | fail)
    | (split at e <;>
       try (rename_i heq
            first | (apply stepWith heq; (focus (with_reducible apply (h.NewInst); done)); clear h; intro h) | (apply stepWith heq; (focus (with_reducible apply (h.NewStore); done)); clear h; intro h) | (apply stepWith heq; (focus (with_reducible apply (h.NewTerm); done)); clear h; intro h) | (apply stepWith heq; (focus (with_reducible apply (h.NewBlock); done)); clear h; intro h) | fail))
    | (cases e; first | done | exact h.ext | fail)
    | (dsimp only at e)
    | fail)

theorem Grows.generateStringConcatenation {a g x g' : IRGenerator} [Ext g x] {left right : Value} {r : Option Value}
    (h : Grows a g) (e : generateStringConcatenation left right x = .ok (r, g')) : Grows a g' := by
  replace h : Grows a x := h.ext
  unfold Irgen.generateStringConcatenation at e
  try simp only [IRGenerator.NewAlloca, IRGenerator.NewLoad, IRGenerator.NewBin, IRGenerator.NewICmp, IRGenerator.NewFCmp, IRGenerator.NewGetElementPtr, IRGenerator.funcValue, NewCall_func, IRGenerator.NewCall, IRGenerator.NewZExt, IRGenerator.NewSelect, IRGenerator.NewBr, IRGenerator.NewCondBr, IRGenerator.NewRet, IRGenerator.NewUnreachable, IRGenerator.NewFunc, IRGenerator.NewGlobalDef] at e
  repeat' (first
    | (first | (revert e; with_reducible apply (h.asResult); done) | (revert e; with_reducible apply (h.failWith); done) | (revert e; with_reducible apply (h.NewInst); done) | (revert e; with_reducible apply (h.NewStore); done) | (revert e; with_reducible apply (h.NewTerm); done) | (revert e; with_reducible apply (h.NewBlock); done) | fail)
    | (apply stepWith e; (focus (with_reducible apply (@ite_ok _ _ _ _ _ _); done)); intro e2
       clear e
       rcases e2 with ⟨_, e⟩ | ⟨_, e⟩)
    | (simp only [bind_assoc, pure_bind] at e)
    | (rw [bind_ok] at e
       obtain ⟨⟨x1, g1⟩, e1, e⟩ := e
       try dsimp only at e
       first
         | (apply stepWith e1; (focus (with_reducible apply (h.NewInst); done)); clear h; intro h) | (apply stepWith e1; (focus (with_reducible apply (h.NewStore); done)); clear h; intro h) | (apply stepWith e1; (focus (with_reducible apply (h.NewTerm); done)); clear h; intro h) | (apply stepWith e1; (focus (with_reducible apply (h.NewBlock); done)); clear h; intro h)
         | (cases e1)
         | (refine Grows.cut (b := g1) ?_ ?_ <;>
             first | (intro h2; clear h e1; rename' h2 => h) | (clear e; rename' e1 => e))
         | fail)
    | (split at e <;>
       try (rename_i heq
            first | (apply stepWith heq; (focus (with_reducible apply (h.getOrDeclare); done)); clear h; intro h) | (apply stepWith heq; (focus (with_reducible apply (h.NewInst); done)); clear h; intro h) | (apply stepWith heq; (focus (with_reducible apply (h.NewStore); done)); clear h; intro h) | (apply stepWith heq; (focus (with_reducible apply (h.NewTerm); done)); clear h; intro h) | (apply stepWith heq; (focus (with_reducible apply (h.NewBlock); done)); clear h; intro h) | fail))
    | (cases e; first | done | exact h.ext | fail)
    | (dsimp only at e)
    | fail)

theorem Grows.generateBoundsCheck {a g x g' : IRGenerator} [Ext g x] {index length : Value} {r : Unit}
    (h : Grows a g) (e : generateBoundsCheck index length x = .ok (r, g')) : Grows a g' := by
  replace h : Grows a x := h.ext
  unfold Irgen.generateBoundsCheck at e
  try simp only [IRGenerator.NewAlloca, IRGenerator.NewLoad, IRGenerator.NewBin, IRGenerator.NewICmp, IRGenerator.NewFCmp, IRGenerator.NewGetElementPtr, IRGenerator.funcValue, NewCall_func, IRGenerator.NewCall, IRGenerator.NewZExt, IRGenerator.NewSelect, IRGenerator.NewBr, IRGenerator.NewCondBr, IRGenerator.NewRet, IRGenerator.NewUnreachable, IRGenerator.NewFunc, IRGenerator.NewGlobalDef] at e
  repeat' (first
    | (first | (revert e; with_reducible apply (h.asResult); done) | (revert e; with_reducible apply (h.failWith); done) | (revert e; with_reducible apply (h.NewInst); done) | (revert e; with_reducible apply (h.NewStore); done) | (revert e; with_reducible apply (h.NewTerm); done) | (revert e; with_reducible apply (h.NewBlock); done) | fail)
    | (apply stepWith e; (focus (with_reducible apply (@ite_ok _ _ _ _ _ _); done)); intro e2
       clear e
       rcases e2 with ⟨_, e⟩ | ⟨_, e⟩)
    | (simp only [bind_assoc, pure_bind] at e)
    | (rw [bind_ok] at e
       obtain ⟨⟨x1, g1⟩, e1, e⟩ := e
       try dsimp only at e
       first
         | (apply stepWith e1; (focus (with_reducible apply (h.NewInst); done)); clear h; intro h) | (apply stepWith e1; (focus (with_reducible apply (h.NewStore); done)); clear h; intro h) | (apply stepWith e1; (focus (with_reducible apply (h.NewTerm); done)); clear h; intro h) | (apply stepWith e1; (focus (with_reducible apply (h.NewBlock); done)); clear h; intro h)
         | (cases e1)
         | (refine Grows.cut (b := g1) ?_ ?_ <;>
             first | (intro h2; clear h e1; rename' h2 => h) | (clear e; rename' e1 => e))
         | fail)
    | (split at e <;>
       try (rename_i heq
            first | (apply stepWith heq; (focus (with_reducible apply (h.getOrDeclare); done)); clear h; intro h) | (apply stepWith heq; (focus (with_reducible apply (h.generateStringLiteral); done)); clear h; intro h) | (apply stepWith heq; (focus (with_reducible apply (h.NewInst); done)); clear h; intro h) | (apply stepWith heq; (focus (with_reducible apply (h.NewStore); done)); clear h; intro h) | (apply stepWith heq; (focus (with_reducible apply (h.NewTerm); done)); clear h; intro h) | (apply stepWith heq; (focus (with_reducible apply (h.NewBlock); done)); clear h; intro h) | fail))
    | (cases e; first | done | exact h.ext | fail)
    | (dsimp only at e)
    | fail)

theorem Grows.infixOperator {a g x g' : IRGenerator} [Ext g x] {leftExpr : Expression} {op : String} {left right : Value} {r : Option Value}
    (h : Grows a g) (e : infixOperator leftExpr op left right x = .ok (r, g')) : Grows a g' := by
  replace h : Grows a x := h.ext
  unfold Irgen.infixOperator at e
  try simp only [IRGenerator.NewAlloca, IRGenerator.NewLoad, IRGenerator.NewBin, IRGenerator.NewICmp, IRGenerator.NewFCmp, IRGenerator.NewGetElementPtr, IRGenerator.funcValue, NewCall_func, IRGenerator.NewCall, IRGenerator.NewZExt, IRGenerator.NewSelect, IRGenerator.NewBr, IRGenerator.NewCondBr, IRGenerator.NewRet, IRGenerator.NewUnreachable, IRGenerator.NewFunc, IRGenerator.NewGlobalDef] at e
  repeat' (first
    | (first | (revert e; with_reducible apply (h.asResult); done) | (revert e; with_reducible apply (h.failWith); done) | (revert e; with_reducible apply (h.NewInst); done) | (revert e; with_reducible apply (h.NewStore); done) | (revert e; with_reducible apply (h.NewTerm); done) | (revert e; with_reducible apply (h.NewBlock); done) | (revert e; with_reducible apply (h.generateStringConcatenation); done) | fail)
    | (apply stepWith e; (focus (with_reducible apply (@ite_ok _ _ _ _ _ _); done)); intro e2
       clear e
       rcases e2 with ⟨_, e⟩ | ⟨_, e⟩)
    | (simp only [bind_assoc, pure_bind] at e)
    | (rw [bind_ok] at e
       obtain ⟨⟨x1, g1⟩, e1, e⟩ := e
       try dsimp only at e
       first
         | (apply stepWith e1; (focus (with_reducible apply (h.NewInst); done)); clear h; intro h) | (apply stepWith e1; (focus (with_reducible apply (h.NewStore); done)); clear h; intro h) | (apply stepWith e1; (focus (with_reducible apply (h.NewTerm); done)); clear h; intro h) | (apply stepWith e1; (focus (with_reducible apply (h.NewBlock); done)); clear h; intro h) | (apply stepWith e1; (focus (with_reducible apply (h.generateStringConcatenation); done)); clear h; intro h)
         | (cases e1)
         | (refine Grows.cut (b := g1) ?_ ?_ <;>
             first | (intro h2; clear h e1; rename' h2 => h) | (clear e; rename' e1 => e))
         | fail)
    | (split at e <;>
       try (rename_i heq
            first | (apply stepWith heq; (focus (with_reducible apply (h.NewInst); done)); clear h; intro h) | (apply stepWith heq; (focus (with_reducible apply (h.NewStore); done)); clear h; intro h) | (apply stepWith heq; (focus (with_reducible apply (h.NewTerm); done)); clear h; intro h) | (apply stepWith heq; (focus (with_reducible apply (h.NewBlock); done)); clear h; intro h) | (apply stepWith heq; (focus (with_reducible apply (h.generateStringConcatenation); done)); clear h; intro h) | fail))
    | (cases e; first | done | exact h.ext | fail)
    | (dsimp only at e)
    | fail)

theorem Grows.printfArgument {a g x g' : IRGenerator} [Ext g x] {argVal : Value} {r : String × Value}
    (h : Grows a g) (e : printfArgument argVal x = .ok (r, g')) : Grows a g' := by
  replace h : Grows a x := h.ext
  unfold Irgen.printfArgument at e
  try simp only [IRGenerator.NewAlloca, IRGenerator.NewLoad, IRGenerator.NewBin, IRGenerator.NewICmp, IRGenerator.NewFCmp, IRGenerator.NewGetElementPtr, IRGenerator.funcValue, NewCall_func, IRGenerator.NewCall, IRGenerator.NewZExt, IRGenerator.NewSelect, IRGenerator.NewBr, IRGenerator.NewCondBr, IRGenerator.NewRet, IRGenerator.NewUnreachable, IRGenerator.NewFunc, IRGenerator.NewGlobalDef] at e
  repeat' (first
    | (first | (revert e; with_reducible apply (h.asResult); done) | (revert e; with_reducible apply (h.failWith); done) | (revert e; with_reducible apply (h.NewInst); done) | (revert e; with_reducible apply (h.NewStore); done) | (revert e; with_reducible apply (h.NewTerm); done) | (revert e; with_reducible apply (h.NewBlock); done) | fail)
    | (apply stepWith e; (focus (with_reducible apply (@ite_ok _ _ _ _ _ _); done)); intro e2
       clear e
       rcases e2 with ⟨_, e⟩ | ⟨_, e⟩)
    | (simp only [bind_assoc, pure_bind] at e)
    | (rw [bind_ok] at e
       obtain ⟨⟨x1, g1⟩, e1, e⟩ := e
       try dsimp only at e
       first
         | (apply stepWith e1; (focus (with_reducible apply (h.NewInst); done)); clear h; intro h) | (apply stepWith e1; (focus (with_reducible apply (h.NewStore); done)); clear h; intro h) | (apply stepWith e1; (focus (with_reducible apply (h.NewTerm); done)); clear h; intro h) | (apply stepWith e1; (focus (with_reducible apply (h.NewBlock); done)); clear h; intro h)
         | (cases e1)
         | (refine Grows.cut (b := g1) ?_ ?_ <;>
             first | (intro h2; clear h e1; rename' h2 => h) | (clear e; rename' e1 => e))
         | fail)
    | (split at e <;>
       try (rename_i heq
            first | (apply stepWith heq; (focus (with_reducible apply (h.NewInst); done)); clear h; intro h) | (apply stepWith heq; (focus (with_reducible apply (h.NewStore); done)); clear h; intro h) | (apply stepWith heq; (focus (with_reducible apply (h.NewTerm); done)); clear h; intro h) | (apply stepWith heq; (focus (with_reducible apply (h.NewBlock); done)); clear h; intro h) | fail))
    | (cases e; first | done | exact h.ext | fail)
    | (dsimp only at e)
    | fail)

theorem Grows.brIfOpen {a g x g' : IRGenerator} [Ext g x] {target : Nat} {r : Unit}
    (h : Grows a g) (e : x.brIfOpen target = .ok (r, g')) : Grows a g' := by
  replace h : Grows a x := h.ext
  unfold Irgen.IRGenerator.brIfOpen at e
  try simp only [IRGenerator.NewAlloca, IRGenerator.NewLoad, IRGenerator.NewBin, IRGenerator.NewICmp, IRGenerator.NewFCmp, IRGenerator.NewGetElementPtr, IRGenerator.funcValue, NewCall_func, IRGenerator.NewCall, IRGenerator.NewZExt, IRGenerator.NewSelect, IRGenerator.NewBr, IRGenerator.NewCondBr, IRGenerator.NewRet, IRGenerator.NewUnreachable, IRGenerator.NewFunc, IRGenerator.NewGlobalDef] at e
  repeat' (first
    | (first | (revert e; with_reducible apply (h.asResult); done) | (revert e; with_reducible apply (h.failWith); done) | (revert e; with_reducible apply (h.NewInst); done) | (revert e; with_reducible apply (h.NewStore); done) | (revert e; with_reducible apply (h.NewTerm); done) | (revert e; with_reducible apply (h.NewBlock); done) | fail)
    | (apply stepWith e; (focus (with_reducible apply (@ite_ok _ _ _ _ _ _); done)); intro e2
       clear e
       rcases e2 with ⟨_, e⟩ | ⟨_, e⟩)
    | (simp only [bind_assoc, pure_bind] at e)
    | (rw [bind_ok] at e
       obtain ⟨⟨x1, g1⟩, e1, e⟩ := e
       try dsimp only at e
       first
         | (apply stepWith e1; (focus (with_reducible apply (h.NewInst); done)); clear h; intro h) | (apply stepWith e1; (focus (with_reducible apply (h.NewStore); done)); clear h; intro h) | (apply stepWith e1; (focus (with_reducible apply (h.NewTerm); done)); clear h; intro h) | (apply stepWith e1; (focus (with_reducible apply (h.NewBlock); done)); clear h; intro h)
         | (cases e1)
         | (refine Grows.cut (b := g1) ?_ ?_ <;>
             first | (intro h2; clear h e1; rename' h2 => h) | (clear e; rename' e1 => e))
         | fail)
    | (split at e <;>
       try (rename_i heq
            first | (apply stepWith heq; (focus (with_reducible apply (h.NewInst); done)); clear h; intro h) | (apply stepWith heq; (focus (with_reducible apply (h.NewStore); done)); clear h; intro h) | (apply stepWith heq; (focus (with_reducible apply (h.NewTerm); done)); clear h; intro h) | (apply stepWith heq; (focus (with_reducible apply (h.NewBlock); done)); clear h; intro h) | fail))
    | (cases e; first | done | exact h.ext | fail)
    | (dsimp only at e)
    | fail)

theorem Grows.indexAccess {a g x g' : IRGenerator} [Ext g x] {arrayValue indexValue : Value} {r : Option Value}
    (h : Grows a g) (e : indexAccess arrayValue indexValue x = .ok (r, g')) : Grows a g' := by
  replace h : Grows a x := h.ext
  unfold Irgen.indexAccess at e
  try simp only [IRGenerator.NewAlloca, IRGenerator.NewLoad, IRGenerator.NewBin, IRGenerator.NewICmp, IRGenerator.NewFCmp, IRGenerator.NewGetElementPtr, IRGenerator.funcValue, NewCall_func, IRGenerator.NewCall, IRGenerator.NewZExt, IRGenerator.NewSelect, IRGenerator.NewBr, IRGenerator.NewCondBr, IRGenerator.NewRet, IRGenerator.NewUnreachable, IRGenerator.NewFunc, IRGenerator.NewGlobalDef] at e
  repeat' (first
    | (first | (revert e; with_reducible apply (h.asResult); done) | (revert e; with_reducible apply (h.failWith); done) | (revert e; with_reducible apply (h.NewInst); done) | (revert e; with_reducible apply (h.NewStore); done) | (revert e; with_reducible apply (h.NewTerm); done) | (revert e; with_reducible apply (h.NewBlock); done) | (revert e; with_reducible apply (h.generateBoundsCheck); done) | fail)
    | (apply stepWith e; (focus (with_reducible apply (@ite_ok _ _ _ _ _ _); done)); intro e2
       clear e
       rcases e2 with ⟨_, e⟩ | ⟨_, e⟩)
    | (simp only [bind_assoc, pure_bind] at e)
    | (rw [bind_ok] at e
       obtain ⟨⟨x1, g1⟩, e1, e⟩ := e
       try dsimp only at e
       first
         | (apply stepWith e1; (focus (with_reducible apply (h.NewInst); done)); clear h; intro h) | (apply stepWith e1; (focus (with_reducible apply (h.NewStore); done)); clear h; intro h) | (apply stepWith e1; (focus (with_reducible apply (h.NewTerm); done)); clear h; intro h) | (apply stepWith e1; (focus (with_reducible apply (h.NewBlock); done)); clear h; intro h) | (apply stepWith e1; (focus (with_reducible apply (h.generateBoundsCheck); done)); clear h; intro h)
         | (cases e1)
         | (refine Grows.cut (b := g1) ?_ ?_ <;>
             first | (intro h2; clear h e1; rename' h2 => h) | (clear e; rename' e1 => e))
         | fail)
    | (split at e <;>
       try (rename_i heq
            first | (apply stepWith heq; (focus (with_reducible apply (h.NewInst); done)); clear h; intro h) | (apply stepWith heq; (focus (with_reducible apply (h.NewStore); done)); clear h; intro h) | (apply stepWith heq; (focus (with_reducible apply (h.NewTerm); done)); clear h; intro h) | (apply stepWith heq; (focus (with_reducible apply (h.NewBlock); done)); clear h; intro h) | (apply stepWith heq; (focus (with_reducible apply (h.generateBoundsCheck); done)); clear h; intro h) | fail))
    | (cases e; first | done | exact h.ext | fail)
    | (dsimp only at e)
    | fail)

theorem Grows.lenOrCap {a g x g' : IRGenerator} [Ext g x] {field : Int} {what : String} {arg : Value} {r : Option Value}
    (h : Grows a g) (e : lenOrCap field what arg x = .ok (r, g')) : Grows a g' := by
  replace h : Grows a x := h.ext
  unfold Irgen.lenOrCap at e
  try simp only [IRGenerator.NewAlloca, IRGenerator.NewLoad, IRGenerator.NewBin, IRGenerator.NewICmp, IRGenerator.NewFCmp, IRGenerator.NewGetElementPtr, IRGenerator.funcValue, NewCall_func, IRGenerator.NewCall, IRGenerator.NewZExt, IRGenerator.NewSelect, IRGenerator.NewBr, IRGenerator.NewCondBr, IRGenerator.NewRet, IRGenerator.NewUnreachable, IRGenerator.NewFunc, IRGenerator.NewGlobalDef] at e
  repeat' (first
    | (first | (revert e; with_reducible apply (h.asResult); done) | (revert e; with_reducible apply (h.failWith); done) | (revert e; with_reducible apply (h.NewInst); done) | (revert e; with_reducible apply (h.NewStore); done) | (revert e; with_reducible apply (h.NewTerm); done) | (revert e; with_reducible apply (h.NewBlock); done) | fail)
    | (apply stepWith e; (focus (with_reducible apply (@ite_ok _ _ _ _ _ _); done)); intro e2
       clear e
       rcases e2 with ⟨_, e⟩ | ⟨_, e⟩)
    | (simp only [bind_assoc, pure_bind] at e)
    | (rw [bind_ok] at e
       obtain ⟨⟨x1, g1⟩, e1, e⟩ := e
       try dsimp only at e
       first
         | (apply stepWith e1; (focus (with_reducible apply (h.NewInst); done)); clear h; intro h) | (apply stepWith e1; (focus (with_reducible apply (h.NewStore); done)); clear h; intro h) | (apply stepWith e1; (focus (with_reducible apply (h.NewTerm); done)); clear h; intro h) | (apply stepWith e1; (focus (with_reducible apply (h.NewBlock); done)); clear h; intro h)
         | (cases e1)
         | (refine Grows.cut (b := g1) ?_ ?_ <;>
             first | (intro h2; clear h e1; rename' h2 => h) | (clear e; rename' e1 => e))
         | fail)
    | (split at e <;>
       try (rename_i heq
            first | (apply stepWith heq; (focus (with_reducible apply (h.NewInst); done)); clear h; intro h) | (apply stepWith heq; (focus (with_reducible apply (h.NewStore); done)); clear h; intro h) | (apply stepWith heq; (focus (with_reducible apply (h.NewTerm); done)); clear h; intro h) | (apply stepWith heq; (focus (with_reducible apply (h.NewBlock); done)); clear h; intro h) | fail))
    | (cases e; first | done | exact h.ext | fail)
    | (dsimp only at e)
    | fail)

theorem Grows.appendElement {a g x g' : IRGenerator} [Ext g x] {i : Nat} {elementVal currentLen sliceArg : Value} {structType elementType : Ty} {r : Unit}
    (h : Grows a g) (e : appendElement i elementVal currentLen sliceArg structType elementType x = .ok (r, g')) : Grows a g' := by
  replace h : Grows a x := h.ext
  unfold Irgen.appendElement at e
  try simp only [IRGenerator.NewAlloca, IRGenerator.NewLoad, IRGenerator.NewBin, IRGenerator.NewICmp, IRGenerator.NewFCmp, IRGenerator.NewGetElementPtr, IRGenerator.funcValue, NewCall_func, IRGenerator.NewCall, IRGenerator.NewZExt, IRGenerator.NewSelect, IRGenerator.NewBr, IRGenerator.NewCondBr, IRGenerator.NewRet, IRGenerator.NewUnreachable, IRGenerator.NewFunc, IRGenerator.NewGlobalDef] at e
  repeat' (first
    | (first | (revert e; with_reducible apply (h.asResult); done) | (revert e; with_reducible apply (h.failWith); done) | (revert e; with_reducible apply (h.NewInst); done) | (revert e; with_reducible apply (h.NewStore); done) | (revert e; with_reducible apply (h.NewTerm); done) | (revert e; with_reducible apply (h.NewBlock); done) | fail)
    | (apply stepWith e; (focus (with_reducible apply (@ite_ok _ _ _ _ _ _); done)); intro e2
       clear e
       rcases e2 with ⟨_, e⟩ | ⟨_, e⟩)
    | (simp only [bind_assoc, pure_bind] at e)
    | (rw [bind_ok] at e
       obtain ⟨⟨x1, g1⟩, e1, e⟩ := e
       try dsimp only at e
       first
         | (apply stepWith e1; (focus (with_reducible apply (h.NewInst); done)); clear h; intro h) | (apply stepWith e1; (focus (with_reducible apply (h.NewStore); done)); clear h; intro h) | (apply stepWith e1; (focus (with_reducible apply (h.NewTerm); done)); clear h; intro h) | (apply stepWith e1; (focus (with_reducible apply (h.NewBlock); done)); clear h; intro h)
         | (cases e1)
         | (refine Grows.cut (b := g1) ?_ ?_ <;>
             first | (intro h2; clear h e1; rename' h2 => h) | (clear e; rename' e1 => e))
         | fail)
    | (split at e <;>
       try (rename_i heq
            first | (apply stepWith heq; (focus (with_reducible apply (h.NewInst); done)); clear h; intro h) | (apply stepWith heq; (focus (with_reducible apply (h.NewStore); done)); clear h; intro h) | (apply stepWith heq; (focus (with_reducible apply (h.NewTerm); done)); clear h; intro h) | (apply stepWith heq; (focus (with_reducible apply (h.NewBlock); done)); clear h; intro h) | fail))
    | (cases e; first | done | exact h.ext | fail)
    | (dsimp only at e)
    | fail)

theorem Grows.appendPrologue {a g x g' : IRGenerator} [Ext g x] {count : Nat} {sliceArg : Value} {structType : Ty} {r : Value × Value × Value × Nat}
    (h : Grows a g) (e : appendPrologue count sliceArg structType x = .ok (r, g')) : Grows a g' := by
  replace h : Grows a x := h.ext
  unfold Irgen.appendPrologue at e
  try simp only [IRGenerator.NewAlloca, IRGenerator.NewLoad, IRGenerator.NewBin, IRGenerator.NewICmp, IRGenerator.NewFCmp, IRGenerator.NewGetElementPtr, IRGenerator.funcValue, NewCall_func, IRGenerator.NewCall, IRGenerator.NewZExt, IRGenerator.NewSelect, IRGenerator.NewBr, IRGenerator.NewCondBr, IRGenerator.NewRet, IRGenerator.NewUnreachable, IRGenerator.NewFunc, IRGenerator.NewGlobalDef] at e
  repeat' (first
    | (first | (revert e; with_reducible apply (h.asResult); done) | (revert e; with_reducible apply (h.failWith); done) | (revert e; with_reducible apply (h.NewInst); done) | (revert e; with_reducible apply (h.NewStore); done) | (revert e; with_reducible apply (h.NewTerm); done) | (revert e; with_reducible apply (h.NewBlock); done) | fail)
    | (apply stepWith e; (focus (with_reducible apply (@ite_ok _ _ _ _ _ _); done)); intro e2
       clear e
       rcases e2 with ⟨_, e⟩ | ⟨_, e⟩)
    | (simp only [bind_assoc, pure_bind] at e)
    | (rw [bind_ok] at e
       obtain ⟨⟨x1, g1⟩, e1, e⟩ := e
       try dsimp only at e
       first
         | (apply stepWith e1; (focus (with_reducible apply (h.NewInst); done)); clear h; intro h) | (apply stepWith e1; (focus (with_reducible apply (h.NewStore); done)); clear h; intro h) | (apply stepWith e1; (focus (with_reducible apply (h.NewTerm); done)); clear h; intro h) | (apply stepWith e1; (focus (with_reducible apply (h.NewBlock); done)); clear h; intro h)
         | (cases e1)
         | (refine Grows.cut (b := g1) ?_ ?_ <;>
             first | (intro h2; clear h e1; rename' h2 => h) | (clear e; rename' e1 => e))
         | fail)
    | (split at e <;>
       try (rename_i heq
            first | (apply stepWith heq; (focus (with_reducible apply (h.NewInst); done)); clear h; intro h) | (apply stepWith heq; (focus (with_reducible apply (h.NewStore); done)); clear h; intro h) | (apply stepWith heq; (focus (with_reducible apply (h.NewTerm); done)); clear h; intro h) | (apply stepWith heq; (focus (with_reducible apply (h.NewBlock); done)); clear h; intro h) | fail))
    | (cases e; first | done | exact h.ext | fail)
    | (dsimp only at e)
    | fail)

theorem Grows.appendEpilogue {a g x g' : IRGenerator} [Ext g x] {lenPtr newLen : Value} {endBlock : Nat} {r : Unit}
    (h : Grows a g) (e : appendEpilogue lenPtr newLen endBlock x = .ok (r, g')) : Grows a g' := by
  replace h : Grows a x := h.ext
  unfold Irgen.appendEpilogue at e
  try simp only [IRGenerator.NewAlloca, IRGenerator.NewLoad, IRGenerator.NewBin, IRGenerator.NewICmp, IRGenerator.NewFCmp, IRGenerator.NewGetElementPtr, IRGenerator.funcValue, NewCall_func, IRGenerator.NewCall, IRGenerator.NewZExt, IRGenerator.NewSelect, IRGenerator.NewBr, IRGenerator.NewCondBr, IRGenerator.NewRet, IRGenerator.NewUnreachable, IRGenerator.NewFunc, IRGenerator.NewGlobalDef] at e
  repeat' (first
    | (first | (revert e; with_reducible apply (h.asResult); done) | (revert e; with_reducible apply (h.failWith); done) | (revert e; with_reducible apply (h.NewInst); done) | (revert e; with_reducible apply (h.NewStore); done) | (revert e; with_reducible apply (h.NewTerm); done) | (revert e; with_reducible apply (h.NewBlock); done) | fail)
    | (apply stepWith e; (focus (with_reducible apply (@ite_ok _ _ _ _ _ _); done)); intro e2
       clear e
       rcases e2 with ⟨_, e⟩ | ⟨_, e⟩)
    | (simp only [bind_assoc, pure_bind] at e)
    | (rw [bind_ok] at e
       obtain ⟨⟨x1, g1⟩, e1, e⟩ := e
       try dsimp only at e
       first
         | (apply stepWith e1; (focus (with_reducible apply (h.NewInst); done)); clear h; intro h) | (apply stepWith e1; (focus (with_reducible apply (h.NewStore); done)); clear h; intro h) | (apply stepWith e1; (focus (with_reducible apply (h.NewTerm); done)); clear h; intro h) | (apply stepWith e1; (focus (with_reducible apply (h.NewBlock); done)); clear h; intro h)
         | (cases e1)
         | (refine Grows.cut (b := g1) ?_ ?_ <;>
             first | (intro h2; clear h e1; rename' h2 => h) | (clear e; rename' e1 => e))
         | fail)
    | (split at e <;>
       try (rename_i heq
            first | (apply stepWith heq; (focus (with_reducible apply (h.NewInst); done)); clear h; intro h) | (apply stepWith heq; (focus (with_reducible apply (h.NewStore); done)); clear h; intro h) | (apply stepWith heq; (focus (with_reducible apply (h.NewTerm); done)); clear h; intro h) | (apply stepWith heq; (focus (with_reducible apply (h.NewBlock); done)); clear h; intro h) | fail))
    | (cases e; first | done | exact h.ext | fail)
    | (dsimp only at e)
    | fail)

theorem Grows.makeSlice {a g x g' : IRGenerator} [Ext g x] {elementType : Ty} {length capacity : Option Value} {r : Option Value}
    (h : Grows a g) (e : makeSlice elementType length capacity x = .ok (r, g')) : Grows a g' := by
  replace h : Grows a x := h.ext
  unfold Irgen.makeSlice at e
  try simp only [IRGenerator.NewAlloca, IRGenerator.NewLoad, IRGenerator.NewBin, IRGenerator.NewICmp, IRGenerator.NewFCmp, IRGenerator.NewGetElementPtr, IRGenerator.funcValue, NewCall_func, IRGenerator.NewCall, IRGenerator.NewZExt, IRGenerator.NewSelect, IRGenerator.NewBr, IRGenerator.NewCondBr, IRGenerator.NewRet, IRGenerator.NewUnreachable, IRGenerator.NewFunc, IRGenerator.NewGlobalDef] at e
  repeat' (first
    | (first | (revert e; with_reducible apply (h.asResult); done) | (revert e; with_reducible apply (h.failWith); done) | (revert e; with_reducible apply (h.NewInst); done) | (revert e; with_reducible apply (h.NewStore); done) | (revert e; with_reducible apply (h.NewTerm); done) | (revert e; with_reducible apply (h.NewBlock); done) | fail)
    | (apply stepWith e; (focus (with_reducible apply (@ite_ok _ _ _ _ _ _); done)); intro e2
       clear e
       rcases e2 with ⟨_, e⟩ | ⟨_, e⟩)
    | (simp only [bind_assoc, pure_bind] at e)
    | (rw [bind_ok] at e
       obtain ⟨⟨x1, g1⟩, e1, e⟩ := e
       try dsimp only at e
       first
         | (apply stepWith e1; (focus (with_reducible apply (h.NewInst); done)); clear h; intro h) | (apply stepWith e1; (focus (with_reducible apply (h.NewStore); done)); clear h; intro h) | (apply stepWith e1; (focus (with_reducible apply (h.NewTerm); done)); clear h; intro h) | (apply stepWith e1; (focus (with_reducible apply (h.NewBlock); done)); clear h; intro h)
         | (cases e1)
         | (refine Grows.cut (b := g1) ?_ ?_ <;>
             first | (intro h2; clear h e1; rename' h2 => h) | (clear e; rename' e1 => e))
         | fail)
    | (split at e <;>
       try (rename_i heq
            first | (apply stepWith heq; (focus (with_reducible apply (h.NewInst); done)); clear h; intro h) | (apply stepWith heq; (focus (with_reducible apply (h.NewStore); done)); clear h; intro h) | (apply stepWith heq; (focus (with_reducible apply (h.NewTerm); done)); clear h; intro h) | (apply stepWith heq; (focus (with_reducible apply (h.NewBlock); done)); clear h; intro h) | fail))
    | (cases e; first | done | exact h.ext | fail)
    | (dsimp only at e)
    | fail)

theorem Grows.arrayElement {a g x g' : IRGenerator} [Ext g x] {i : Nat} {elementValue : Value} {elementType arrayType : Ty} {arrayAlloca : Value} {r : Unit}
    (h : Grows a g) (e : arrayElement i elementValue elementType arrayType arrayAlloca x = .ok (r, g')) : Grows a g' := by
  replace h : Grows a x := h.ext
  unfold Irgen.arrayElement at e
  try simp only [IRGenerator.NewAlloca, IRGenerator.NewLoad, IRGenerator.NewBin, IRGenerator.NewICmp, IRGenerator.NewFCmp, IRGenerator.NewGetElementPtr, IRGenerator.funcValue, NewCall_func, IRGenerator.NewCall, IRGenerator.NewZExt, IRGenerator.NewSelect, IRGenerator.NewBr, IRGenerator.NewCondBr, IRGenerator.NewRet, IRGenerator.NewUnreachable, IRGenerator.NewFunc, IRGenerator.NewGlobalDef] at e
  repeat' (first
    | (first | (revert e; with_reducible apply (h.asResult); done) | (revert e; with_reducible apply (h.failWith); done) | (revert e; with_reducible apply (h.NewInst); done) | (revert e; with_reducible apply (h.NewStore); done) | (revert e; with_reducible apply (h.NewTerm); done) | (revert e; with_reducible apply (h.NewBlock); done) | fail)
    | (apply stepWith e; (focus (with_reducible apply (@ite_ok _ _ _ _ _ _); done)); intro e2
       clear e
       rcases e2 with ⟨_, e⟩ | ⟨_, e⟩)
    | (simp only [bind_assoc, pure_bind] at e)
    | (rw [bind_ok] at e
       obtain ⟨⟨x1, g1⟩, e1, e⟩ := e
       try dsimp only at e
       first
         | (apply stepWith e1; (focus (with_reducible apply (h.NewInst); done)); clear h; intro h) | (apply stepWith e1; (focus (with_reducible apply (h.NewStore); done)); clear h; intro h) | (apply stepWith e1; (focus (with_reducible apply (h.NewTerm); done)); clear h; intro h) | (apply stepWith e1; (focus (with_reducible apply (h.NewBlock); done)); clear h; intro h)
         | (cases e1)
         | (refine Grows.cut (b := g1) ?_ ?_ <;>
             first | (intro h2; clear h e1; rename' h2 => h) | (clear e; rename' e1 => e))
         | fail)
    | (split at e <;>
       try (rename_i heq
            first | (apply stepWith heq; (focus (with_reducible apply (h.NewInst); done)); clear h; intro h) | (apply stepWith heq; (focus (with_reducible apply (h.NewStore); done)); clear h; intro h) | (apply stepWith heq; (focus (with_reducible apply (h.NewTerm); done)); clear h; intro h) | (apply stepWith heq; (focus (with_reducible apply (h.NewBlock); done)); clear h; intro h) | fail))
    | (cases e; first | done | exact h.ext | fail)
    | (dsimp only at e)
    | fail)

theorem Grows.implicitReturn {a g x g' : IRGenerator} [Ext g x] {bodyIsNil : Bool} {r : Unit}
    (h : Grows a g) (e : implicitReturn bodyIsNil x = .ok (r, g')) : Grows a g' := by
  replace h : Grows a x := h.ext
  unfold Irgen.implicitReturn at e
  try simp only [IRGenerator.NewAlloca, IRGenerator.NewLoad, IRGenerator.NewBin, IRGenerator.NewICmp, IRGenerator.NewFCmp, IRGenerator.NewGetElementPtr, IRGenerator.funcValue, NewCall_func, IRGenerator.NewCall, IRGenerator.NewZExt, IRGenerator.NewSelect, IRGenerator.NewBr, IRGenerator.NewCondBr, IRGenerator.NewRet, IRGenerator.NewUnreachable, IRGenerator.NewFunc, IRGenerator.NewGlobalDef] at e
  repeat' (first
    | (first | (revert e; with_reducible apply (h.asResult); done) | (revert e; with_reducible apply (h.failWith); done) | (revert e; with_reducible apply (h.NewInst); done) | (revert e; with_reducible apply (h.NewStore); done) | (revert e; with_reducible apply (h.NewTerm); done) | (revert e; with_reducible apply (h.NewBlock); done) | fail)
    | (apply stepWith e; (focus (with_reducible apply (@ite_ok _ _ _ _ _ _); done)); intro e2
       clear e
       rcases e2 with ⟨_, e⟩ | ⟨_, e⟩)
    | (simp only [bind_assoc, pure_bind] at e)
    | (rw [bind_ok] at e
       obtain ⟨⟨x1, g1⟩, e1, e⟩ := e
       try dsimp only at e
       first
         | (apply stepWith e1; (focus (with_reducible apply (h.NewInst); done)); clear h; intro h) | (apply stepWith e1; (focus (with_reducible apply (h.NewStore); done)); clear h; intro h) | (apply stepWith e1; (focus (with_reducible apply (h.NewTerm); done)); clear h; intro h) | (apply stepWith e1; (focus (with_reducible apply (h.NewBlock); done)); clear h; intro h)
         | (cases e1)
         | (refine Grows.cut (b := g1) ?_ ?_ <;>
             first | (intro h2; clear h e1; rename' h2 => h) | (clear e; rename' e1 => e))
         | fail)
    | (split at e <;>
       try (rename_i heq
            first | (apply stepWith heq; (focus (with_reducible apply (h.NewInst); done)); clear h; intro h) | (apply stepWith heq; (focus (with_reducible apply (h.NewStore); done)); clear h; intro h) | (apply stepWith heq; (focus (with_reducible apply (h.NewTerm); done)); clear h; intro h) | (apply stepWith heq; (focus (with_reducible apply (h.NewBlock); done)); clear h; intro h) | fail))
    | (cases e; first | done | exact h.ext | fail)
    | (dsimp only at e)
    | fail)

theorem Grows.printfNoArguments {a g x g' : IRGenerator} [Ext g x] {funcName : String} {r : Option Value}
    (h : Grows a g) (e : printfNoArguments funcName x = .ok (r, g')) : Grows a g' := by
  replace h : Grows a x := h.ext
  unfold Irgen.printfNoArguments at e
  try simp only [IRGenerator.NewAlloca, IRGenerator.NewLoad, IRGenerator.NewBin, IRGenerator.NewICmp, IRGenerator.NewFCmp, IRGenerator.NewGetElementPtr, IRGenerator.funcValue, NewCall_func, IRGenerator.NewCall, IRGenerator.NewZExt, IRGenerator.NewSelect, IRGenerator.NewBr, IRGenerator.NewCondBr, IRGenerator.NewRet, IRGenerator.NewUnreachable, IRGenerator.NewFunc, IRGenerator.NewGlobalDef] at e
  repeat' (first
    | (first | (revert e; with_reducible apply (h.asResult); done) | (revert e; with_reducible apply (h.failWith); done) | (revert e; with_reducible apply (h.NewInst); done) | (revert e; with_reducible apply (h.NewStore); done) | (revert e; with_reducible apply (h.NewTerm); done) | (revert e; with_reducible apply (h.NewBlock); done) | fail)
    | (apply stepWith e; (focus (with_reducible apply (@ite_ok _ _ _ _ _ _); done)); intro e2
       clear e
       rcases e2 with ⟨_, e⟩ | ⟨_, e⟩)
    | (simp only [bind_assoc, pure_bind] at e)
    | (rw [bind_ok] at e
       obtain ⟨⟨x1, g1⟩, e1, e⟩ := e
       try dsimp only at e
       first
         | (apply stepWith e1; (focus (with_reducible apply (h.NewInst); done)); clear h; intro h) | (apply stepWith e1; (focus (with_reducible apply (h.NewStore); done)); clear h; intro h) | (apply stepWith e1; (focus (with_reducible apply (h.NewTerm); done)); clear h; intro h) | (apply stepWith e1; (focus (with_reducible apply (h.NewBlock); done)); clear h; intro h)
         | (cases e1)
         | (refine Grows.cut (b := g1) ?_ ?_ <;>
             first | (intro h2; clear h e1; rename' h2 => h) | (clear e; rename' e1 => e))
         | fail)
    | (split at e <;>
       try (rename_i heq
            first | (apply stepWith heq; (focus (with_reducible apply (h.getOrDeclare); done)); clear h; intro h) | (apply stepWith heq; (focus (with_reducible apply (h.generateStringLiteral); done)); clear h; intro h) | (apply stepWith heq; (focus (with_reducible apply (h.NewInst); done)); clear h; intro h) | (apply stepWith heq; (focus (with_reducible apply (h.NewStore); done)); clear h; intro h) | (apply stepWith heq; (focus (with_reducible apply (h.NewTerm); done)); clear h; intro h) | (apply stepWith heq; (focus (with_reducible apply (h.NewBlock); done)); clear h; intro h) | fail))
    | (cases e; first | done | exact h.ext | fail)
    | (dsimp only at e)
    | fail)

theorem Grows.printfCall {a g x g' : IRGenerator} [Ext g x] {funcName : String} {printFunc : Nat} {formatParts : List String} {irArgs : List Value} {r : Option Value}
    (h : Grows a g) (e : printfCall funcName printFunc formatParts irArgs x = .ok (r, g')) : Grows a g' := by
  replace h : Grows a x := h.ext
  unfold Irgen.printfCall at e
  try simp only [IRGenerator.NewAlloca, IRGenerator.NewLoad, IRGenerator.NewBin, IRGenerator.NewICmp, IRGenerator.NewFCmp, IRGenerator.NewGetElementPtr, IRGenerator.funcValue, NewCall_func, IRGenerator.NewCall, IRGenerator.NewZExt, IRGenerator.NewSelect, IRGenerator.NewBr, IRGenerator.NewCondBr, IRGenerator.NewRet, IRGenerator.NewUnreachable, IRGenerator.NewFunc, IRGenerator.NewGlobalDef] at e
  repeat' (first
    | (first | (revert e; with_reducible apply (h.asResult); done) | (revert e; with_reducible apply (h.failWith); done) | (revert e; with_reducible apply (h.NewInst); done) | (revert e; with_reducible apply (h.NewStore); done) | (revert e; with_reducible apply (h.NewTerm); done) | (revert e; with_reducible apply (h.NewBlock); done) | fail)
    | (apply stepWith e; (focus (with_reducible apply (@ite_ok _ _ _ _ _ _); done)); intro e2
       clear e
       rcases e2 with ⟨_, e⟩ | ⟨_, e⟩)
    | (simp only [bind_assoc, pure_bind] at e)
    | (rw [bind_ok] at e
       obtain ⟨⟨x1, g1⟩, e1, e⟩ := e
       try dsimp only at e
       first
         | (apply stepWith e1; (focus (with_reducible apply (h.NewInst); done)); clear h; intro h) | (apply stepWith e1; (focus (with_reducible apply (h.NewStore); done)); clear h; intro h) | (apply stepWith e1; (focus (with_reducible apply (h.NewTerm); done)); clear h; intro h) | (apply stepWith e1; (focus (with_reducible apply (h.NewBlock); done)); clear h; intro h)
         | (cases e1)
         | (refine Grows.cut (b := g1) ?_ ?_ <;>
             first | (intro h2; clear h e1; rename' h2 => h) | (clear e; rename' e1 => e))
         | fail)
    | (split at e <;>
       try (rename_i heq
            first | (apply stepWith heq; (focus (with_reducible apply (h.generateStringLiteral); done)); clear h; intro h) | (apply stepWith heq; (focus (with_reducible apply (h.NewInst); done)); clear h; intro h) | (apply stepWith heq; (focus (with_reducible apply (h.NewStore); done)); clear h; intro h) | (apply stepWith heq; (focus (with_reducible apply (h.NewTerm); done)); clear h; intro h) | (apply stepWith heq; (focus (with_reducible apply (h.NewBlock); done)); clear h; intro h) | fail))
    | (cases e; first | done | exact h.ext | fail)
    | (dsimp only at e)
    | fail)

theorem Grows.createMainFunction {a g x g' : IRGenerator} [Ext g x]  {r : Unit}
    (h : Grows a g) (e : createMainFunction x = .ok (r, g')) : Grows a g' := by
  replace h : Grows a x := h.ext
  unfold Irgen.createMainFunction at e
  try simp only [IRGenerator.NewAlloca, IRGenerator.NewLoad, IRGenerator.NewBin, IRGenerator.NewICmp, IRGenerator.NewFCmp, IRGenerator.NewGetElementPtr, IRGenerator.funcValue, NewCall_func, IRGenerator.NewCall, IRGenerator.NewZExt, IRGenerator.NewSelect, IRGenerator.NewBr, IRGenerator.NewCondBr, IRGenerator.NewRet, IRGenerator.NewUnreachable, IRGenerator.NewFunc, IRGenerator.NewGlobalDef] at e
  repeat' (first
    | (first | (revert e; with_reducible apply (h.asResult); done) | (revert e; with_reducible apply (h.failWith); done) | (revert e; with_reducible apply (h.NewInst); done) | (revert e; with_reducible apply (h.NewStore); done) | (revert e; with_reducible apply (h.NewTerm); done) | (revert e; with_reducible apply (h.NewBlock); done) | fail)
    | (apply stepWith e; (focus (with_reducible apply (@ite_ok _ _ _ _ _ _); done)); intro e2
       clear e
       rcases e2 with ⟨_, e⟩ | ⟨_, e⟩)
    | (simp only [bind_assoc, pure_bind] at e)
    | (rw [bind_ok] at e
       obtain ⟨⟨x1, g1⟩, e1, e⟩ := e
       try dsimp only at e
       first
         | (apply stepWith e1; (focus (with_reducible apply (h.NewInst); done)); clear h; intro h) | (apply stepWith e1; (focus (with_reducible apply (h.NewStore); done)); clear h; intro h) | (apply stepWith e1; (focus (with_reducible apply (h.NewTerm); done)); clear h; intro h) | (apply stepWith e1; (focus (with_reducible apply (h.NewBlock); done)); clear h; intro h)
         | (cases e1)
         | (refine Grows.cut (b := g1) ?_ ?_ <;>
             first | (intro h2; clear h e1; rename' h2 => h) | (clear e; rename' e1 => e))
         | fail)
    | (split at e <;>
       try (rename_i heq
            first | (apply stepWith heq; (focus (with_reducible apply (h.NewInst); done)); clear h; intro h) | (apply stepWith heq; (focus (with_reducible apply (h.NewStore); done)); clear h; intro h) | (apply stepWith heq; (focus (with_reducible apply (h.NewTerm); done)); clear h; intro h) | (apply stepWith heq; (focus (with_reducible apply (h.NewBlock); done)); clear h; intro h) | fail))
    | (cases e; first | done | exact h.ext | fail)
    | (dsimp only at e)
    | fail)

/-! ### Unfolding of the recursive methods -/

theorem generateExpression_identifier_eq (name : String) (g : IRGenerator) :
    generateExpression (.Identifier name) g =
      (generateIdentifier name g) := rfl

theorem generateExpression_integer_eq (v : Int) (g : IRGenerator) :
    generateExpression (.IntegerLiteral v) g =
      (.ok (some (.ConstInt .I32 v), g)) := rfl

theorem generateExpression_float_eq (b : Nat) (g : IRGenerator) :
    generateExpression (.FloatLiteral b) g =
      (.ok (some (.ConstFloat .Double b), g)) := rfl

theorem generateExpression_string_eq (v : String) (g : IRGenerator) :
    generateExpression (.StringLiteral v) g =
      (let (c, g) := generateStringLiteral v g
      .ok (some c, g)) := rfl

theorem generateExpression_boolean_eq (v : Bool) (g : IRGenerator) :
    generateExpression (.BooleanLiteral v) g =
      (.ok (some (generateBooleanLiteral v), g)) := rfl

theorem generateExpression_prefix_eq (op : String) (right : Expression) (g : IRGenerator) :
    generateExpression (.PrefixExpression op right) g =
      (do
      let (right, g) ← generateExpression right g
      match right with
      | none => pure (none, g)
      | some right => prefixOperator op right g) := rfl

theorem generateExpression_infix_eq (left : Expression) (op : String) (right : Expression) (g : IRGenerator) :
    generateExpression (.InfixExpression left op right) g =
      (if op = ":=" then
        match left with
        | .Identifier varName =>
          if (lookup varName g.symbolTable).isSome then
            failWith g ("Değişken zaten tanımlı: " ++ varName)
          else do
            let (rv, g) ← generateExpression right g
            match rv with
            | none => pure (none, g)
            | some rv =>
              if g.currentFunc.isNone then
                failWith g "Kısa değişken tanımlama sadece fonksiyon içinde kullanılabilir"
              else if g.currentBB.isNone then
                failWith g "Geçerli bir blok yok, değişken tanımlanamıyor"
              else do
                let (alloca, g) ← g.NewAlloca g.currentBB rv.Type varName
                let g := g.bindSymbol varName alloca
                let (_, g) ← g.NewStore g.currentBB rv alloca
                pure (some rv, g)
        | _ =>
          failWith g "Kısa değişken tanımlama operatörünün sol tarafı bir tanımlayıcı olmalıdır"
      else do
        let (lv, g) ← generateExpression left g
        let (rv, g) ← generateExpression right g
        match lv, rv with
        | some lv, some rv =>
          if g.currentBB.isNone then
            failWith g "Geçerli bir blok yok, araek ifadesi değerlendirilemiyor"
          else if op = "&&" then
            match g.currentFunc with
            | none => failWith g "Geçerli bir fonksiyon yok, mantıksal AND değerlendirilemiyor"
            | some currFunc => do
              let (rightBlock, g) ← g.NewBlock (some currFunc) ""
              let (mergeBlock, g) ← g.NewBlock (some currFunc) ""
              let (_, g) ← g.NewCondBr g.currentBB lv rightBlock mergeBlock
              let g := g.setCurrentBB (some rightBlock)
              let (_, g) ← generateExpression right g
              let (_, g) ← g.NewBr g.currentBB mergeBlock
              pure (some (.ConstInt .I1 0), g.setCurrentBB (some mergeBlock))
          else if op = "||" then
            match g.currentFunc with
            | none => failWith g "Geçerli bir fonksiyon yok, mantıksal OR değerlendirilemiyor"
            | some currFunc => do
              let (rightBlock, g) ← g.NewBlock (some currFunc) ""
              let (mergeBlock, g) ← g.NewBlock (some currFunc) ""
              let (_, g) ← g.NewCondBr g.currentBB lv mergeBlock rightBlock
              let g := g.setCurrentBB (some rightBlock)
              let (_, g) ← generateExpression right g
              let (_, g) ← g.NewBr g.currentBB mergeBlock
              pure (some (.ConstInt .I1 1), g.setCurrentBB (some mergeBlock))
          else infixOperator left op lv rv g
        | _, _ => pure (none, g)) := rfl

theorem generateExpression_postfix_eq (left : Expression) (op : String) (g : IRGenerator) :
    generateExpression (.PostfixExpression left op) g =
      (generatePostfixExpression left op g) := rfl

theorem generateExpression_call_eq (function : Expression) (arguments : List Expression) (g : IRGenerator) :
    generateExpression (.CallExpression function arguments) g =
      (match function with
      | .Identifier funcName =>
        if funcName = "len" then generateLenCall arguments g
        else if funcName = "cap" then generateCapCall arguments g
        else if funcName = "append" then generateAppendCall arguments g
        else if funcName = "make" then generateMakeCall arguments g
        else
          match resolveCallee funcName g with
          | (fn, g) =>
            if g.currentBB.isNone then
              failWith g "Geçerli bir blok yok, fonksiyon çağrısı yapılamıyor"
            else do
              let (args, g) ← callArguments arguments g
              asResult (g.NewCall g.currentBB fn args)
      | other => failWith g ("Desteklenmeyen fonksiyon çağrısı türü: " ++ other.goType)) := rfl

theorem generateExpression_memberCall_eq (object member : Expression) (arguments : List Expression) (g : IRGenerator) :
    generateExpression (.MemberCall object member arguments) g =
      (if g.currentBB.isNone then
        failWith g "Geçerli bir blok yok, member function çağrısı yapılamıyor"
      else
        match member with
        | .Identifier memberName =>
          match object with
          | .Identifier objectName =>
            if objectName = "fmt" then
              if memberName = "Println" || memberName = "Print" || memberName = "Printf" then
                if g.currentBB.isNone then
                  failWith g "Geçerli bir blok yok, printf çağrısı yapılamıyor"
                else
                  match arguments with
                  | [] => printfNoArguments memberName g
                  | _ :: _ =>
                    match getOrDeclare "printf" .I32 [⟨"format", .Pointer .I8⟩] true g with
                    | (printFunc, g) => do
                      let ((formatParts, irArgs), g) ← printfArguments arguments g
                      printfCall memberName printFunc formatParts irArgs g
              else failWith g ("Desteklenmeyen fmt fonksiyonu: " ++ memberName)
            else if objectName = "os" then
              if memberName = "Exit" then generateExitCall arguments g
              else failWith g ("Desteklenmeyen os fonksiyonu: " ++ memberName)
            else
              match resolveCallee (objectName ++ "_" ++ memberName) g with
              | (fn, g) => do
                let (args, g) ← callArguments arguments g
                asResult (g.NewCall g.currentBB fn args)
          | _ => failWith g "Object adı bir tanımlayıcı olmalıdır"
        | _ => failWith g "Member adı bir tanımlayıcı olmalıdır") := rfl

theorem generateExpression_functionLiteral_eq (parameters : List String) (body : Option (List Statement)) (g : IRGenerator) :
    generateExpression (.FunctionLiteral parameters body) g =
      (do
      let (fn, g) := g.NewFunc "anonymous_func" .I32 []
      let g := parameters.foldl (fun g _ => g.appendParam fn ⟨"", .I32⟩) g
      let prevFunc := g.currentFunc
      let prevBB := g.currentBB
      let g := g.setCurrentFunc (some fn)
      let (entryBlock, g) ← g.NewBlock (some fn) "entry"
      let g := g.setCurrentBB (some entryBlock)
      let (_, g) ← bindLiteralParameters parameters 0 fn entryBlock g
      let (_, g) ←
        match body with
        | some stmts => generateBlockStatement stmts g
        | none => pure ((), g)
      let (_, g) ← implicitReturn false g
      pure (some (g.funcValue fn), (g.setCurrentFunc prevFunc).setCurrentBB prevBB)) := by
  cases body <;> rfl

theorem generateExpression_ifExpression_eq (condition : Expression) (consequence alternative : Option (List Statement)) (g : IRGenerator) :
    generateExpression (.IfExpression condition consequence alternative) g =
      (do
      let (cond, g) ← generateExpression condition g
      match cond with
      | none => pure (none, g)
      | some cond =>
        if g.currentFunc.isNone then
          failWith g "Geçerli bir fonksiyon yok, if ifadesi değerlendirilemiyor"
        else do
          let g := g.nextLabel
          let labelSuffix := toString g.labelCounter
          let (thenBlock, g) ← g.NewBlock g.currentFunc ("if.then." ++ labelSuffix)
          let (elseBlock, g) ← g.NewBlock g.currentFunc ("if.else." ++ labelSuffix)
          let (mergeBlock, g) ← g.NewBlock g.currentFunc ("if.end." ++ labelSuffix)
          let (_, g) ← g.NewCondBr g.currentBB cond thenBlock elseBlock
          let g := g.setCurrentBB (some thenBlock)
          let (_, g) ←
            match consequence with
            | some stmts => do
              let (_, g) ← generateBlockStatement stmts g
              g.brIfOpen mergeBlock
            | none => g.NewBr g.currentBB mergeBlock
          let g := g.setCurrentBB (some elseBlock)
          let (_, g) ←
            match alternative with
            | some stmts => do
              let (_, g) ← generateBlockStatement stmts g
              g.brIfOpen mergeBlock
            | none => g.NewBr g.currentBB mergeBlock
          pure (none, g.setCurrentBB (some mergeBlock))) := by
  cases consequence <;> cases alternative <;> rfl

theorem generateExpression_arrayLiteral_eq (elements : List Expression) (g : IRGenerator) :
    generateExpression (.ArrayLiteral elements) g =
      (if g.currentBB.isNone then
        failWith g "Geçerli bir blok yok, array literal değerlendirilemiyor"
      else
        match elements with
        | [] => .ok (some (.ConstNull (.Pointer .I32)), g)
        | first :: rest => do
          let (firstElement, g) ← generateExpression first g
          match firstElement with
          | none => pure (none, g)
          | some firstElement =>
            let elementType := firstElement.Type
            let arrayType := Ty.Array (rest.length + 1) elementType
            let (arrayAlloca, g) ← g.NewAlloca g.currentBB arrayType ""
            let (_, g) ← arrayElements (first :: rest) 0 elementType arrayType arrayAlloca g
            pure (some arrayAlloca, g)) := by
  cases elements <;> rfl

theorem generateExpression_indexExpression_eq (left index : Expression) (g : IRGenerator) :
    generateExpression (.IndexExpression left index) g =
      (if g.currentBB.isNone then
        failWith g "Geçerli bir blok yok, index expression değerlendirilemiyor"
      else do
        let (arrayValue, g) ← generateExpression left g
        match arrayValue with
        | none => pure (none, g)
        | some arrayValue =>
          let (indexValue, g) ← generateExpression index g
          match indexValue with
          | none => pure (none, g)
          | some indexValue => indexAccess arrayValue indexValue g) := rfl

theorem generateExpression_arrayType_eq (size : Option Expression) (elementType : Expression) (g : IRGenerator) :
    generateExpression (.ArrayType size elementType) g =
      (failWith g "Desteklenmeyen ifade türü: *ast.ArrayType") := rfl

theorem generateExpression_other_eq (t : String) (g : IRGenerator) :
    generateExpression (.Other t) g =
      (failWith g ("Desteklenmeyen ifade türü: " ++ t)) := rfl

theorem generateExpression_newExpression_eq (l : ExternalExpression) (g : IRGenerator) :
    generateExpression (.NewExpression l) g = l.run g := rfl

theorem generateExpression_memberExpression_eq (l : ExternalExpression) (g : IRGenerator) :
    generateExpression (.MemberExpression l) g = l.run g := rfl

theorem generateExpression_templateExpression_eq (l : ExternalExpression) (g : IRGenerator) :
    generateExpression (.TemplateExpression l) g = l.run g := rfl

theorem generateExpression_tryExpression_eq (l : ExternalExpression) (g : IRGenerator) :
    generateExpression (.TryExpression l) g = l.run g := rfl

theorem callArguments_nil_eq (g : IRGenerator) :
    callArguments [] g =
      (.ok ([], g)) := rfl

theorem callArguments_cons_eq (arg : Expression) (rest : List Expression) (g : IRGenerator) :
    callArguments (arg :: rest) g =
      (do
      let (argVal, g) ← generateExpression arg g
      let (args, g) ← callArguments rest g
      match argVal with
      | some v => pure (v :: args, g)
      | none => pure (args, g)) := rfl

theorem generateLenCall_one_eq (a : Expression) (g : IRGenerator) :
    generateLenCall [a] g =
      (if g.currentBB.isNone then failWith g "Geçerli bir blok yok, len() çağrısı yapılamıyor"
      else do
        let (arg, g) ← generateExpression a g
        match arg with
        | none => pure (none, g)
        | some arg => lenOrCap 1 "len" arg g) := rfl

theorem generateLenCall_nil_eq (g : IRGenerator) :
    generateLenCall [] g =
      (failWith g ("len() fonksiyonu tam olarak 1 argüman alır, " ++ toString ([] : List Expression).length ++ " verildi")) := rfl

theorem generateLenCall_more_eq (a b : Expression) (rest : List Expression) (g : IRGenerator) :
    generateLenCall (a :: b :: rest) g =
      (failWith g ("len() fonksiyonu tam olarak 1 argüman alır, " ++ toString (a :: b :: rest).length ++ " verildi")) := rfl

theorem generateCapCall_one_eq (a : Expression) (g : IRGenerator) :
    generateCapCall [a] g =
      (if g.currentBB.isNone then failWith g "Geçerli bir blok yok, cap() çağrısı yapılamıyor"
      else do
        let (arg, g) ← generateExpression a g
        match arg with
        | none => pure (none, g)
        | some arg => lenOrCap 2 "cap" arg g) := rfl

theorem generateCapCall_nil_eq (g : IRGenerator) :
    generateCapCall [] g =
      (failWith g ("cap() fonksiyonu tam olarak 1 argüman alır, " ++ toString ([] : List Expression).length ++ " verildi")) := rfl

theorem generateCapCall_more_eq (a b : Expression) (rest : List Expression) (g : IRGenerator) :
    generateCapCall (a :: b :: rest) g =
      (failWith g ("cap() fonksiyonu tam olarak 1 argüman alır, " ++ toString (a :: b :: rest).length ++ " verildi")) := rfl

theorem generateAppendCall_more_eq (a0 a1 : Expression) (rest : List Expression) (g : IRGenerator) :
    generateAppendCall (a0 :: a1 :: rest) g =
      (if g.currentBB.isNone then failWith g "Geçerli bir blok yok, append() çağrısı yapılamıyor"
      else do
        let (sliceArg, g) ← generateExpression a0 g
        match sliceArg with
        | none => pure (none, g)
        | some sliceArg =>
          match sliceArg.Type with
          | .Pointer structType =>
            match sliceElementType structType with
            | none => failWith g "Slice element tipi belirlenemedi"
            | some elementType => do
              let ((lenPtr, currentLen, newLen, endBlock), g) ←
                appendPrologue (rest.length + 1) sliceArg structType g
              let (_, g) ← appendElements (a1 :: rest) 0 currentLen sliceArg structType elementType g
              let (_, g) ← appendEpilogue lenPtr newLen endBlock g
              pure (some sliceArg, g)
          | _ => failWith g "append() fonksiyonunun ilk argümanı slice olmalıdır") := rfl

theorem generateAppendCall_nil_eq (g : IRGenerator) :
    generateAppendCall [] g =
      (failWith g ("append() fonksiyonu en az 2 argüman alır, " ++ toString ([] : List Expression).length ++ " verildi")) := rfl

theorem generateAppendCall_one_eq (a : Expression) (g : IRGenerator) :
    generateAppendCall [a] g =
      (failWith g ("append() fonksiyonu en az 2 argüman alır, " ++ toString [a].length ++ " verildi")) := rfl

theorem appendElements_nil_eq (i : Nat) (currentLen sliceArg : Value) (structType elementType : Ty) (g : IRGenerator) :
    appendElements [] i currentLen sliceArg structType elementType g =
      (.ok ((), g)) := rfl

theorem appendElements_cons_eq (argExpr : Expression) (rest : List Expression) (i : Nat) (currentLen sliceArg : Value) (structType elementType : Ty) (g : IRGenerator) :
    appendElements (argExpr :: rest) i currentLen sliceArg structType elementType g =
      (do
      let (elementVal, g) ← generateExpression argExpr g
      match elementVal with
      | none => appendElements rest (i + 1) currentLen sliceArg structType elementType g
      | some elementVal => do
        let (_, g) ← appendElement i elementVal currentLen sliceArg structType elementType g
        appendElements rest (i + 1) currentLen sliceArg structType elementType g) := rfl

theorem generateMakeCall_nil_eq (g : IRGenerator) :
    generateMakeCall [] g =
      (failWith g "make() fonksiyonu 1-3 argüman alır, 0 verildi") := rfl

theorem generateMakeCall_cons_eq (typeExpr : Expression) (rest : List Expression) (g : IRGenerator) :
    generateMakeCall (typeExpr :: rest) g =
      (if rest.length + 1 > 3 then
        failWith g ("make() fonksiyonu 1-3 argüman alır, " ++ toString (rest.length + 1) ++ " verildi")
      else if g.currentBB.isNone then
        failWith g "Geçerli bir blok yok, make() çağrısı yapılamıyor"
      else
        match typeExpr with
        | .ArrayType size elementTypeExpr =>
          if size.isSome then
            failWith g "make() fonksiyonu array tipi ile kullanılamaz, slice tipi kullanın"
          else
            let elementType : Ty :=
              match elementTypeExpr with
              | .Identifier name => (lookup name g.typeTable).getD .I32
              | _ => .I32
            match rest with
            | [] => failWith g "make() slice için length argümanı gerekli"
            | lengthExpr :: rest2 => do
              let (length, g) ← generateExpression lengthExpr g
              let (capacity, g) ←
                match rest2 with
                | capacityExpr :: _ => generateExpression capacityExpr g
                | [] => pure (length, g)
              makeSlice elementType length capacity g
        | other =>
          failWith g ("make() fonksiyonu desteklenmeyen tip ile kullanıldı: " ++ other.goType)) := by
  cases typeExpr <;> rcases rest with _ | ⟨l, _ | ⟨c, r⟩⟩ <;> rfl

theorem printfArguments_nil_eq (g : IRGenerator) :
    printfArguments [] g =
      (.ok (([], []), g)) := rfl

theorem printfArguments_cons_eq (arg : Expression) (rest : List Expression) (g : IRGenerator) :
    printfArguments (arg :: rest) g =
      (do
      let (argVal, g) ← generateExpression arg g
      match argVal with
      | none => printfArguments rest g
      | some argVal => do
        let ((spec, v), g) ← printfArgument argVal g
        let ((specs, vs), g) ← printfArguments rest g
        pure ((spec :: specs, v :: vs), g)) := rfl

theorem generateExitCall_nil_eq (g : IRGenerator) :
    generateExitCall [] g =
      (if g.currentBB.isNone then failWith g "Geçerli bir blok yok, exit çağrısı yapılamıyor"
      else
        match g.NewFunc "exit" .Void [⟨"status", .I32⟩] with
        | (exitFunc, g) => asResult (g.NewCall g.currentBB (g.funcValue exitFunc) [.ConstInt .I32 0])) := rfl

theorem generateExitCall_cons_eq (arg : Expression) (rest : List Expression) (g : IRGenerator) :
    generateExitCall (arg :: rest) g =
      (if g.currentBB.isNone then failWith g "Geçerli bir blok yok, exit çağrısı yapılamıyor"
      else
        match g.NewFunc "exit" .Void [⟨"status", .I32⟩] with
        | (exitFunc, g) => do
          let (exitCode, g) ← generateExpression arg g
          asResult (g.NewCall g.currentBB (g.funcValue exitFunc) [exitCode.getD .Nil])) := rfl

theorem arrayElements_nil_eq (i : Nat) (elementType arrayType : Ty) (arrayAlloca : Value) (g : IRGenerator) :
    arrayElements [] i elementType arrayType arrayAlloca g =
      (.ok ((), g)) := rfl

theorem arrayElements_cons_eq (element : Expression) (rest : List Expression) (i : Nat) (elementType arrayType : Ty) (arrayAlloca : Value) (g : IRGenerator) :
    arrayElements (element :: rest) i elementType arrayType arrayAlloca g =
      (do
      let (elementValue, g) ← generateExpression element g
      match elementValue with
      | none => arrayElements rest (i + 1) elementType arrayType arrayAlloca g
      | some elementValue => do
        let (_, g) ← arrayElement i elementValue elementType arrayType arrayAlloca g
        arrayElements rest (i + 1) elementType arrayType arrayAlloca g) := rfl

theorem generateStatement_package_eq (name : String) (g : IRGenerator) :
    generateStatement (.PackageStatement name) g =
      (.ok ((), g.setModuleName name)) := rfl

theorem generateStatement_importStatement_eq (g : IRGenerator) :
    generateStatement .ImportStatement g =
      (.ok ((), g)) := rfl

theorem generateStatement_expression_eq (e : Expression) (g : IRGenerator) :
    generateStatement (.ExpressionStatement e) g =
      (do
      let (_, g) ← generateExpression e g
      pure ((), g)) := rfl

theorem generateStatement_var_eq (varName : String) (type value : Option Expression) (g : IRGenerator) :
    generateStatement (.VarStatement varName type value) g =
      (match varStatementType varName type value g with
      | (none, g) => .ok ((), g)
      | (some varType, g) =>
        if g.currentFunc.isNone then .ok ((), declareGlobal varName varType value g)
        else if g.currentBB.isNone then
          .ok ((), g.ReportError ("Geçerli bir blok yok, değişken tanımlanamıyor: " ++ varName))
        else do
          let (alloca, g) ← g.NewAlloca g.currentBB varType varName
          let g := g.bindSymbol varName alloca
          match value with
          | none => pure ((), g)
          | some v => do
            let (val, g) ← generateExpression v g
            match val with
            | some val => g.NewStore g.currentBB val alloca
            | none => pure ((), g)) := by
  cases value <;> rfl

theorem generateStatement_return_eq (returnValue : Option Expression) (g : IRGenerator) :
    generateStatement (.ReturnStatement returnValue) g =
      (if g.currentFunc.isNone then
        .ok ((), g.ReportError "Fonksiyon dışında dönüş deyimi kullanılamaz")
      else if g.currentBB.isNone then
        .ok ((), g.ReportError "Geçerli bir blok yok, dönüş deyimi değerlendirilemiyor")
      else
        match returnValue with
        | some e => do
          let (retVal, g) ← generateExpression e g
          match retVal with
          | some retVal => g.NewRet g.currentBB retVal
          | none => g.NewRet g.currentBB (.ConstInt .I32 0)
        | none => g.NewRet g.currentBB (.ConstInt .I32 0)) := by
  cases returnValue <;> rfl

theorem generateStatement_block_eq (statements : List Statement) (g : IRGenerator) :
    generateStatement (.BlockStatement statements) g =
      (generateBlockStatement statements g) := rfl

theorem generateStatement_while_eq (condition : Expression) (body : Option (List Statement)) (g : IRGenerator) :
    generateStatement (.WhileStatement condition body) g =
      (if g.currentFunc.isNone then
        .ok ((), g.ReportError "Geçerli bir fonksiyon yok, while döngüsü değerlendirilemiyor")
      else do
        let (condBlock, g) ← g.NewBlock g.currentFunc "while.cond"
        let (bodyBlock, g) ← g.NewBlock g.currentFunc "while.body"
        let (endBlock, g) ← g.NewBlock g.currentFunc "while.end"
        let (_, g) ← g.NewBr g.currentBB condBlock
        let g := g.setCurrentBB (some condBlock)
        let (cond, g) ← generateExpression condition g
        match cond with
        | none => pure ((), g)
        | some cond => do
          let (_, g) ← g.NewCondBr g.currentBB cond bodyBlock endBlock
          let g := g.setCurrentBB (some bodyBlock)
          let (_, g) ←
            match body with
            | some stmts => generateBlockStatement stmts g
            | none => pure ((), g)
          let (_, g) ← g.brIfOpen condBlock
          pure ((), g.setCurrentBB (some endBlock))) := by
  cases body <;> rfl

theorem generateStatement_for_eq (init : Option Statement) (condition : Option Expression) (post : Option Statement) (body : Option (List Statement)) (g : IRGenerator) :
    generateStatement (.ForStatement init condition post body) g =
      (if g.currentFunc.isNone then
        .ok ((), g.ReportError "Geçerli bir fonksiyon yok, for döngüsü değerlendirilemiyor")
      else do
        let g := g.nextLabel
        let labelSuffix := toString g.labelCounter
        let (initBlock, g) ← g.NewBlock g.currentFunc ("for.init." ++ labelSuffix)
        let (condBlock, g) ← g.NewBlock g.currentFunc ("for.cond." ++ labelSuffix)
        let (bodyBlock, g) ← g.NewBlock g.currentFunc ("for.body." ++ labelSuffix)
        let (postBlock, g) ← g.NewBlock g.currentFunc ("for.post." ++ labelSuffix)
        let (endBlock, g) ← g.NewBlock g.currentFunc ("for.end." ++ labelSuffix)
        let (_, g) ← g.NewBr g.currentBB initBlock
        let g := g.setCurrentBB (some initBlock)
        let (_, g) ←
          match init with
          | some s => generateStatement s g
          | none => pure ((), g)
        let (_, g) ← g.NewBr g.currentBB condBlock
        let g := g.setCurrentBB (some condBlock)
        let (continues, g) ←
          match condition with
          | some c => do
            let (cond, g) ← generateExpression c g
            match cond with
            | none => pure (false, g)
            | some cond => do
              let (_, g) ← g.NewCondBr g.currentBB cond bodyBlock endBlock
              pure (true, g)
          | none => do
            let (_, g) ← g.NewBr g.currentBB bodyBlock
            pure (true, g)
        if continues then do
          let g := g.setCurrentBB (some bodyBlock)
          let (_, g) ←
            match body with
            | some stmts => generateBlockStatement stmts g
            | none => pure ((), g)
          let (_, g) ← g.brIfOpen postBlock
          let g := g.setCurrentBB (some postBlock)
          let (_, g) ←
            match post with
            | some s => generateStatement s g
            | none => pure ((), g)
          let (_, g) ← g.brIfOpen condBlock
          pure ((), g.setCurrentBB (some endBlock))
        else pure ((), g)) := by
  cases init <;> cases condition <;> cases post <;> cases body <;> rfl

theorem generateStatement_switch_eq (tag : Option Expression) (cases : List CaseClause) (g : IRGenerator) :
    generateStatement (.SwitchStatement tag cases) g =
      (if g.currentFunc.isNone then
        .ok ((), g.ReportError "Geçerli bir fonksiyon yok, switch ifadesi değerlendirilemiyor")
      else do
        let g := g.nextLabel
        let labelSuffix := toString g.labelCounter
        let (proceed, switchValue, g) ←
          match tag with
          | some t => do
            let (v, g) ← generateExpression t g
            pure (v.isSome, v, g)
          | none => (pure (true, none, g) : Except String (Bool × Option Value × IRGenerator))
        if proceed then do
          let (endBlock, g) ← g.NewBlock g.currentFunc ("switch.end." ++ labelSuffix)
          let ((caseBlocks, defaultBlock), g) ← newCaseBlocks cases 0 labelSuffix none g
          let defaultBlock := defaultBlock.getD endBlock
          let currentBlock := g.currentBB
          let (currentBlock, g) ←
            match switchValue with
            | some sv => taggedSwitchCases cases 0 sv caseBlocks currentBlock g
            | none => booleanSwitchCases cases 0 caseBlocks currentBlock g
          let (_, g) ← g.NewBr currentBlock defaultBlock
          let (_, g) ← switchBodies cases 0 caseBlocks endBlock g
          pure ((), g.setCurrentBB (some endBlock))
        else pure ((), g)) := by
  cases tag <;> rfl

theorem generateStatement_function_eq (funcName : String) (parameters : List String) (returnType : Option Expression) (body : Option (List Statement)) (g : IRGenerator) :
    generateStatement (.FunctionStatement funcName parameters returnType body) g =
      (match functionReturnType returnType g with
      | (retTy, g) => do
        let (fn, g) := g.NewFunc funcName retTy []
        let g := appendParams parameters fn g
        let prevFunc := g.currentFunc
        let prevBB := g.currentBB
        let g := g.setCurrentFunc (some fn)
        let (entryBlock, g) ← g.NewBlock (some fn) "entry"
        let g := g.setCurrentBB (some entryBlock)
        let (_, g) ← bindParameters parameters 0 fn entryBlock g
        let (_, g) ←
          match body with
          | some stmts => generateBlockStatement stmts g
          | none => pure ((), g)
        let (_, g) ← implicitReturn body.isNone g
        let g := (g.setCurrentFunc prevFunc).setCurrentBB prevBB
        pure ((), g.bindSymbol funcName (g.funcValue fn))) := by
  cases body <;> rfl

theorem generateStatement_other_eq (t : String) (g : IRGenerator) :
    generateStatement (.Other t) g =
      (.ok ((), g.ReportError ("Desteklenmeyen deyim türü: " ++ t))) := rfl

theorem generateStatement_classStatement_eq (l : ExternalStatement) (g : IRGenerator) :
    generateStatement (.ClassStatement l) g = l.run g := rfl

theorem generateStatement_templateStatement_eq (l : ExternalStatement) (g : IRGenerator) :
    generateStatement (.TemplateStatement l) g = l.run g := rfl

theorem generateStatement_tryCatchStatement_eq (l : ExternalStatement) (g : IRGenerator) :
    generateStatement (.TryCatchStatement l) g = l.run g := rfl

theorem generateStatement_throwStatement_eq (l : ExternalStatement) (g : IRGenerator) :
    generateStatement (.ThrowStatement l) g = l.run g := rfl

theorem generateBlockStatement_nil_eq (g : IRGenerator) :
    generateBlockStatement [] g =
      (.ok ((), g)) := rfl

theorem generateBlockStatement_cons_eq (s : Statement) (rest : List Statement) (g : IRGenerator) :
    generateBlockStatement (s :: rest) g =
      (do
      let (_, g) ← generateStatement s g
      if g.terminated then pure ((), g) else generateBlockStatement rest g) := rfl

theorem taggedSwitchCases_nil_eq (i : Nat) (switchValue : Value) (caseBlocks : List Nat) (currentBlock : Option Nat) (g : IRGenerator) :
    taggedSwitchCases [] i switchValue caseBlocks currentBlock g =
      (.ok (currentBlock, g)) := rfl

theorem taggedSwitchCases_cons_eq (isDefault : Bool) (values : List Expression) (body : List Statement) (rest : List CaseClause) (i : Nat) (switchValue : Value) (caseBlocks : List Nat) (currentBlock : Option Nat) (g : IRGenerator) :
    taggedSwitchCases (.mk isDefault values body :: rest) i switchValue caseBlocks currentBlock g =
      (if isDefault then taggedSwitchCases rest (i + 1) switchValue caseBlocks currentBlock g
      else do
        let (currentBlock, g) ← taggedSwitchValues values i switchValue caseBlocks currentBlock g
        taggedSwitchCases rest (i + 1) switchValue caseBlocks currentBlock g) := rfl

theorem taggedSwitchValues_nil_eq (i : Nat) (switchValue : Value) (caseBlocks : List Nat) (currentBlock : Option Nat) (g : IRGenerator) :
    taggedSwitchValues [] i switchValue caseBlocks currentBlock g =
      (.ok (currentBlock, g)) := rfl

theorem taggedSwitchValues_cons_eq (caseValue : Expression) (rest : List Expression) (i : Nat) (switchValue : Value) (caseBlocks : List Nat) (currentBlock : Option Nat) (g : IRGenerator) :
    taggedSwitchValues (caseValue :: rest) i switchValue caseBlocks currentBlock g =
      (do
      let (val, g) ← generateExpression caseValue g
      match val with
      | none => taggedSwitchValues rest i switchValue caseBlocks currentBlock g
      | some val => do
        let (cmp, g) ← g.NewICmp currentBlock .EQ switchValue val
        let (nextBlock, g) ← g.NewBlock g.currentFunc ("switch.next." ++ toString i)
        let (_, g) ← g.NewCondBr currentBlock cmp (caseBlocks.getD i 0) nextBlock
        taggedSwitchValues rest i switchValue caseBlocks (some nextBlock) g) := rfl

theorem booleanSwitchCases_nil_eq (i : Nat) (caseBlocks : List Nat) (currentBlock : Option Nat) (g : IRGenerator) :
    booleanSwitchCases [] i caseBlocks currentBlock g =
      (.ok (currentBlock, g)) := rfl

theorem booleanSwitchCases_cons_eq (isDefault : Bool) (values : List Expression) (body : List Statement) (rest : List CaseClause) (i : Nat) (caseBlocks : List Nat) (currentBlock : Option Nat) (g : IRGenerator) :
    booleanSwitchCases (.mk isDefault values body :: rest) i caseBlocks currentBlock g =
      (if isDefault then booleanSwitchCases rest (i + 1) caseBlocks currentBlock g
      else do
        let (condition, g) ← booleanSwitchValues values 0 none currentBlock g
        match condition with
        | some condition => do
          let (nextBlock, g) ← g.NewBlock g.currentFunc ("switch.next." ++ toString i)
          let (_, g) ← g.NewCondBr currentBlock condition (caseBlocks.getD i 0) nextBlock
          booleanSwitchCases rest (i + 1) caseBlocks (some nextBlock) g
        | none => booleanSwitchCases rest (i + 1) caseBlocks currentBlock g) := rfl

theorem booleanSwitchValues_nil_eq (j : Nat) (condition : Option Value) (currentBlock : Option Nat) (g : IRGenerator) :
    booleanSwitchValues [] j condition currentBlock g =
      (.ok (condition, g)) := rfl

theorem booleanSwitchValues_cons_eq (caseValue : Expression) (rest : List Expression) (j : Nat) (condition : Option Value) (currentBlock : Option Nat) (g : IRGenerator) :
    booleanSwitchValues (caseValue :: rest) j condition currentBlock g =
      (do
      let (val, g) ← generateExpression caseValue g
      match val with
      | none => booleanSwitchValues rest (j + 1) condition currentBlock g
      | some val =>
        if j = 0 then booleanSwitchValues rest (j + 1) (some val) currentBlock g
        else do
          let (c, g) ← g.NewBin currentBlock .Or (condition.getD .Nil) val
          booleanSwitchValues rest (j + 1) (some c) currentBlock g) := rfl

theorem switchBodies_nil_eq (i : Nat) (caseBlocks : List Nat) (endBlock : Nat) (g : IRGenerator) :
    switchBodies [] i caseBlocks endBlock g =
      (.ok ((), g)) := rfl

theorem switchBodies_cons_eq (isDefault : Bool) (values : List Expression) (body : List Statement) (rest : List CaseClause) (i : Nat) (caseBlocks : List Nat) (endBlock : Nat) (g : IRGenerator) :
    switchBodies (.mk isDefault values body :: rest) i caseBlocks endBlock g =
      (do
      let g := g.setCurrentBB (some (caseBlocks.getD i 0))
      let (_, g) ← caseBody body g
      let (_, g) ← g.brIfOpen endBlock
      switchBodies rest (i + 1) caseBlocks endBlock g) := rfl

theorem caseBody_nil_eq (g : IRGenerator) :
    caseBody [] g =
      (.ok ((), g)) := rfl

theorem caseBody_cons_eq (s : Statement) (rest : List Statement) (g : IRGenerator) :
    caseBody (s :: rest) g =
      (do
      let (_, g) ← generateStatement s g
      match g.TermOf g.currentBB with
      | .error e => .error e
      | .ok (some _) => pure ((), g)
      | .ok none => caseBody rest g) := rfl

/-! ### Lowering only extends the generator: the recursive methods -/

theorem callArguments_grows (l : List Expression) (ih : ∀ e ∈ l, ExprOK e) :
    ∀ (a x g' : IRGenerator) (r : List Value), Grows a x →
      callArguments l x = .ok (r, g') → Grows a g' := by
  induction l with
  | nil =>
    intro a x g' r h e
    rw [callArguments_nil_eq] at e
    cases e
    exact h
  | cons arg rest ihl =>
    intro a x g' r h e
    have ih1 := ih arg (List.mem_cons_self _ _)
    have ihr := ihl (fun e he => ih e (List.mem_cons_of_mem _ he))
    rw [callArguments_cons_eq] at e
    try simp only [IRGenerator.NewAlloca, IRGenerator.NewLoad, IRGenerator.NewBin, IRGenerator.NewICmp, IRGenerator.NewFCmp, IRGenerator.NewGetElementPtr, IRGenerator.funcValue, NewCall_func, IRGenerator.NewCall, IRGenerator.NewZExt, IRGenerator.NewSelect, IRGenerator.NewBr, IRGenerator.NewCondBr, IRGenerator.NewRet, IRGenerator.NewUnreachable, IRGenerator.NewFunc, IRGenerator.NewGlobalDef] at e
    repeat' (first
      | (first | (revert e; with_reducible apply (h.asResult); done) | (revert e; with_reducible apply (h.failWith); done) | (revert e; with_reducible apply (h.NewInst); done) | (revert e; with_reducible apply (h.NewStore); done) | (revert e; with_reducible apply (h.NewTerm); done) | (revert e; with_reducible apply (h.NewBlock); done) | (revert e; with_reducible apply (ih1.grows h); done) | (revert e; with_reducible apply (ihr _ _ _ _ h.ext); done) | fail)
      | (apply stepWith e; (focus (with_reducible apply (@ite_ok _ _ _ _ _ _); done)); intro e2
         clear e
         rcases e2 with ⟨_, e⟩ | ⟨_, e⟩)
      | (simp only [bind_assoc, pure_bind] at e)
      | (rw [bind_ok] at e
         obtain ⟨⟨x1, g1⟩, e1, e⟩ := e
         try dsimp only at e
         first
           | (apply stepWith e1; (focus (with_reducible apply (h.NewInst); done)); clear h; intro h) | (apply stepWith e1; (focus (with_reducible apply (h.NewStore); done)); clear h; intro h) | (apply stepWith e1; (focus (with_reducible apply (h.NewTerm); done)); clear h; intro h) | (apply stepWith e1; (focus (with_reducible apply (h.NewBlock); done)); clear h; intro h) | (apply stepWith e1; (focus (with_reducible apply (ih1.grows h); done)); clear h; intro h) | (apply stepWith e1; (focus (with_reducible apply (ihr _ _ _ _ h.ext); done)); clear h; intro h)
           | (cases e1)
           | (refine Grows.cut (b := g1) ?_ ?_ <;>
               first | (intro h2; clear h e1; rename' h2 => h) | (clear e; rename' e1 => e))
           | fail)
      | (split at e <;>
         try (rename_i heq
              first | (apply stepWith heq; (focus (with_reducible apply (h.NewInst); done)); clear h; intro h) | (apply stepWith heq; (focus (with_reducible apply (h.NewStore); done)); clear h; intro h) | (apply stepWith heq; (focus (with_reducible apply (h.NewTerm); done)); clear h; intro h) | (apply stepWith heq; (focus (with_reducible apply (h.NewBlock); done)); clear h; intro h) | (apply stepWith heq; (focus (with_reducible apply (ih1.grows h); done)); clear h; intro h) | (apply stepWith heq; (focus (with_reducible apply (ihr _ _ _ _ h.ext); done)); clear h; intro h) | fail))
      | (cases e; first | done | exact h.ext | fail)
      | (dsimp only at e)
      | fail)

theorem Grows.callArguments {l : List Expression} (ih : ∀ e ∈ l, ExprOK e) {a g x g' : IRGenerator}
    [Ext g x] {r : List Value} (h : Grows a g)
    (e : callArguments l x = .ok (r, g')) : Grows a g' :=
  callArguments_grows l ih a x g' r h.ext e

theorem appendElements_grows (l : List Expression) (ih : ∀ e ∈ l, ExprOK e) :
    ∀ (i : Nat) (currentLen sliceArg : Value) (structType elementType : Ty) (a x g' : IRGenerator) (r : Unit), Grows a x →
      appendElements l i currentLen sliceArg structType elementType x = .ok (r, g') → Grows a g' := by
  induction l with
  | nil =>
    intro i currentLen sliceArg structType elementType a x g' r h e
    rw [appendElements_nil_eq] at e
    cases e
    exact h
  | cons argExpr rest ihl =>
    intro i currentLen sliceArg structType elementType a x g' r h e
    have ih1 := ih argExpr (List.mem_cons_self _ _)
    have ihr := ihl (fun e he => ih e (List.mem_cons_of_mem _ he))
    rw [appendElements_cons_eq] at e
    try simp only [IRGenerator.NewAlloca, IRGenerator.NewLoad, IRGenerator.NewBin, IRGenerator.NewICmp, IRGenerator.NewFCmp, IRGenerator.NewGetElementPtr, IRGenerator.funcValue, NewCall_func, IRGenerator.NewCall, IRGenerator.NewZExt, IRGenerator.NewSelect, IRGenerator.NewBr, IRGenerator.NewCondBr, IRGenerator.NewRet, IRGenerator.NewUnreachable, IRGenerator.NewFunc, IRGenerator.NewGlobalDef] at e
    repeat' (first
      | (first | (revert e; with_reducible apply (h.asResult); done) | (revert e; with_reducible apply (h.failWith); done) | (revert e; with_reducible apply (h.NewInst); done) | (revert e; with_reducible apply (h.NewStore); done) | (revert e; with_reducible apply (h.NewTerm); done) | (revert e; with_reducible apply (h.NewBlock); done) | (revert e; with_reducible apply (ih1.grows h); done) | (revert e; with_reducible apply (ihr _ _ _ _ _ _ _ _ _ h.ext); done) | (revert e; with_reducible apply (h.appendElement); done) | fail)
      | (apply stepWith e; (focus (with_reducible apply (@ite_ok _ _ _ _ _ _); done)); intro e2
         clear e
         rcases e2 with ⟨_, e⟩ | ⟨_, e⟩)
      | (simp only [bind_assoc, pure_bind] at e)
      | (rw [bind_ok] at e
         obtain ⟨⟨x1, g1⟩, e1, e⟩ := e
         try dsimp only at e
         first
           | (apply stepWith e1; (focus (with_reducible apply (h.NewInst); done)); clear h; intro h) | (apply stepWith e1; (focus (with_reducible apply (h.NewStore); done)); clear h; intro h) | (apply stepWith e1; (focus (with_reducible apply (h.NewTerm); done)); clear h; intro h) | (apply stepWith e1; (focus (with_reducible apply (h.NewBlock); done)); clear h; intro h) | (apply stepWith e1; (focus (with_reducible apply (ih1.grows h); done)); clear h; intro h) | (apply stepWith e1; (focus (with_reducible apply (ihr _ _ _ _ _ _ _ _ _ h.ext); done)); clear h; intro h) | (apply stepWith e1; (focus (with_reducible apply (h.appendElement); done)); clear h; intro h)
           | (cases e1)
           | (refine Grows.cut (b := g1) ?_ ?_ <;>
               first | (intro h2; clear h e1; rename' h2 => h) | (clear e; rename' e1 => e))
           | fail)
      | (split at e <;>
         try (rename_i heq
              first | (apply stepWith heq; (focus (with_reducible apply (h.NewInst); done)); clear h; intro h) | (apply stepWith heq; (focus (with_reducible apply (h.NewStore); done)); clear h; intro h) | (apply stepWith heq; (focus (with_reducible apply (h.NewTerm); done)); clear h; intro h) | (apply stepWith heq; (focus (with_reducible apply (h.NewBlock); done)); clear h; intro h) | (apply stepWith heq; (focus (with_reducible apply (ih1.grows h); done)); clear h; intro h) | (apply stepWith heq; (focus (with_reducible apply (ihr _ _ _ _ _ _ _ _ _ h.ext); done)); clear h; intro h) | (apply stepWith heq; (focus (with_reducible apply (h.appendElement); done)); clear h; intro h) | fail))
      | (cases e; first | done | exact h.ext | fail)
      | (dsimp only at e)
      | fail)

theorem Grows.appendElements {l : List Expression} (ih : ∀ e ∈ l, ExprOK e) {a g x g' : IRGenerator}
    [Ext g x] {i : Nat} {currentLen sliceArg : Value} {structType elementType : Ty} {r : Unit} (h : Grows a g)
    (e : appendElements l i currentLen sliceArg structType elementType x = .ok (r, g')) : Grows a g' :=
  appendElements_grows l ih _ _ _ _ _ a x g' r h.ext e

theorem printfArguments_grows (l : List Expression) (ih : ∀ e ∈ l, ExprOK e) :
    ∀ (a x g' : IRGenerator) (r : List String × List Value), Grows a x →
      printfArguments l x = .ok (r, g') → Grows a g' := by
  induction l with
  | nil =>
    intro a x g' r h e
    rw [printfArguments_nil_eq] at e
    cases e
    exact h
  | cons arg rest ihl =>
    intro a x g' r h e
    have ih1 := ih arg (List.mem_cons_self _ _)
    have ihr := ihl (fun e he => ih e (List.mem_cons_of_mem _ he))
    rw [printfArguments_cons_eq] at e
    try simp only [IRGenerator.NewAlloca, IRGenerator.NewLoad, IRGenerator.NewBin, IRGenerator.NewICmp, IRGenerator.NewFCmp, IRGenerator.NewGetElementPtr, IRGenerator.funcValue, NewCall_func, IRGenerator.NewCall, IRGenerator.NewZExt, IRGenerator.NewSelect, IRGenerator.NewBr, IRGenerator.NewCondBr, IRGenerator.NewRet, IRGenerator.NewUnreachable, IRGenerator.NewFunc, IRGenerator.NewGlobalDef] at e
    repeat' (first
      | (first | (revert e; with_reducible apply (h.asResult); done) | (revert e; with_reducible apply (h.failWith); done) | (revert e; with_reducible apply (h.NewInst); done) | (revert e; with_reducible apply (h.NewStore); done) | (revert e; with_reducible apply (h.NewTerm); done) | (revert e; with_reducible apply (h.NewBlock); done) | (revert e; with_reducible apply (ih1.grows h); done) | (revert e; with_reducible apply (ihr _ _ _ _ h.ext); done) | (revert e; with_reducible apply (h.printfArgument); done) | fail)
      | (apply stepWith e; (focus (with_reducible apply (@ite_ok _ _ _ _ _ _); done)); intro e2
         clear e
         rcases e2 with ⟨_, e⟩ | ⟨_, e⟩)
      | (simp only [bind_assoc, pure_bind] at e)
      | (rw [bind_ok] at e
         obtain ⟨⟨x1, g1⟩, e1, e⟩ := e
         try dsimp only at e
         first
           | (apply stepWith e1; (focus (with_reducible apply (h.NewInst); done)); clear h; intro h) | (apply stepWith e1; (focus (with_reducible apply (h.NewStore); done)); clear h; intro h) | (apply stepWith e1; (focus (with_reducible apply (h.NewTerm); done)); clear h; intro h) | (apply stepWith e1; (focus (with_reducible apply (h.NewBlock); done)); clear h; intro h) | (apply stepWith e1; (focus (with_reducible apply (ih1.grows h); done)); clear h; intro h) | (apply stepWith e1; (focus (with_reducible apply (ihr _ _ _ _ h.ext); done)); clear h; intro h) | (apply stepWith e1; (focus (with_reducible apply (h.printfArgument); done)); clear h; intro h)
           | (cases e1)
           | (refine Grows.cut (b := g1) ?_ ?_ <;>
               first | (intro h2; clear h e1; rename' h2 => h) | (clear e; rename' e1 => e))
           | fail)
      | (split at e <;>
         try (rename_i heq
              first | (apply stepWith heq; (focus (with_reducible apply (h.NewInst); done)); clear h; intro h) | (apply stepWith heq; (focus (with_reducible apply (h.NewStore); done)); clear h; intro h) | (apply stepWith heq; (focus (with_reducible apply (h.NewTerm); done)); clear h; intro h) | (apply stepWith heq; (focus (with_reducible apply (h.NewBlock); done)); clear h; intro h) | (apply stepWith heq; (focus (with_reducible apply (ih1.grows h); done)); clear h; intro h) | (apply stepWith heq; (focus (with_reducible apply (ihr _ _ _ _ h.ext); done)); clear h; intro h) | (apply stepWith heq; (focus (with_reducible apply (h.printfArgument); done)); clear h; intro h) | fail))
      | (cases e; first | done | exact h.ext | fail)
      | (dsimp only at e)
      | fail)

theorem Grows.printfArguments {l : List Expression} (ih : ∀ e ∈ l, ExprOK e) {a g x g' : IRGenerator}
    [Ext g x] {r : List String × List Value} (h : Grows a g)
    (e : printfArguments l x = .ok (r, g')) : Grows a g' :=
  printfArguments_grows l ih a x g' r h.ext e

theorem arrayElements_grows (l : List Expression) (ih : ∀ e ∈ l, ExprOK e) :
    ∀ (i : Nat) (elementType arrayType : Ty) (arrayAlloca : Value) (a x g' : IRGenerator) (r : Unit), Grows a x →
      arrayElements l i elementType arrayType arrayAlloca x = .ok (r, g') → Grows a g' := by
  induction l with
  | nil =>
    intro i elementType arrayType arrayAlloca a x g' r h e
    rw [arrayElements_nil_eq] at e
    cases e
    exact h
  | cons element rest ihl =>
    intro i elementType arrayType arrayAlloca a x g' r h e
    have ih1 := ih element (List.mem_cons_self _ _)
    have ihr := ihl (fun e he => ih e (List.mem_cons_of_mem _ he))
    rw [arrayElements_cons_eq] at e
    try simp only [IRGenerator.NewAlloca, IRGenerator.NewLoad, IRGenerator.NewBin, IRGenerator.NewICmp, IRGenerator.NewFCmp, IRGenerator.NewGetElementPtr, IRGenerator.funcValue, NewCall_func, IRGenerator.NewCall, IRGenerator.NewZExt, IRGenerator.NewSelect, IRGenerator.NewBr, IRGenerator.NewCondBr, IRGenerator.NewRet, IRGenerator.NewUnreachable, IRGenerator.NewFunc, IRGenerator.NewGlobalDef] at e
    repeat' (first
      | (first | (revert e; with_reducible apply (h.asResult); done) | (revert e; with_reducible apply (h.failWith); done) | (revert e; with_reducible apply (h.NewInst); done) | (revert e; with_reducible apply (h.NewStore); done) | (revert e; with_reducible apply (h.NewTerm); done) | (revert e; with_reducible apply (h.NewBlock); done) | (revert e; with_reducible apply (ih1.grows h); done) | (revert e; with_reducible apply (ihr _ _ _ _ _ _ _ _ h.ext); done) | (revert e; with_reducible apply (h.arrayElement); done) | fail)
      | (apply stepWith e; (focus (with_reducible apply (@ite_ok _ _ _ _ _ _); done)); intro e2
         clear e
         rcases e2 with ⟨_, e⟩ | ⟨_, e⟩)
      | (simp only [bind_assoc, pure_bind] at e)
      | (rw [bind_ok] at e
         obtain ⟨⟨x1, g1⟩, e1, e⟩ := e
         try dsimp only at e
         first
           | (apply stepWith e1; (focus (with_reducible apply (h.NewInst); done)); clear h; intro h) | (apply stepWith e1; (focus (with_reducible apply (h.NewStore); done)); clear h; intro h) | (apply stepWith e1; (focus (with_reducible apply (h.NewTerm); done)); clear h; intro h) | (apply stepWith e1; (focus (with_reducible apply (h.NewBlock); done)); clear h; intro h) | (apply stepWith e1; (focus (with_reducible apply (ih1.grows h); done)); clear h; intro h) | (apply stepWith e1; (focus (with_reducible apply (ihr _ _ _ _ _ _ _ _ h.ext); done)); clear h; intro h) | (apply stepWith e1; (focus (with_reducible apply (h.arrayElement); done)); clear h; intro h)
           | (cases e1)
           | (refine Grows.cut (b := g1) ?_ ?_ <;>
               first | (intro h2; clear h e1; rename' h2 => h) | (clear e; rename' e1 => e))
           | fail)
      | (split at e <;>
         try (rename_i heq
              first | (apply stepWith heq; (focus (with_reducible apply (h.NewInst); done)); clear h; intro h) | (apply stepWith heq; (focus (with_reducible apply (h.NewStore); done)); clear h; intro h) | (apply stepWith heq; (focus (with_reducible apply (h.NewTerm); done)); clear h; intro h) | (apply stepWith heq; (focus (with_reducible apply (h.NewBlock); done)); clear h; intro h) | (apply stepWith heq; (focus (with_reducible apply (ih1.grows h); done)); clear h; intro h) | (apply stepWith heq; (focus (with_reducible apply (ihr _ _ _ _ _ _ _ _ h.ext); done)); clear h; intro h) | (apply stepWith heq; (focus (with_reducible apply (h.arrayElement); done)); clear h; intro h) | fail))
      | (cases e; first | done | exact h.ext | fail)
      | (dsimp only at e)
      | fail)

theorem Grows.arrayElements {l : List Expression} (ih : ∀ e ∈ l, ExprOK e) {a g x g' : IRGenerator}
    [Ext g x] {i : Nat} {elementType arrayType : Ty} {arrayAlloca : Value} {r : Unit} (h : Grows a g)
    (e : arrayElements l i elementType arrayType arrayAlloca x = .ok (r, g')) : Grows a g' :=
  arrayElements_grows l ih _ _ _ _ a x g' r h.ext e

theorem taggedSwitchValues_grows (l : List Expression) (ih : ∀ e ∈ l, ExprOK e) :
    ∀ (i : Nat) (switchValue : Value) (caseBlocks : List Nat) (currentBlock : Option Nat) (a x g' : IRGenerator) (r : Option Nat), Grows a x →
      taggedSwitchValues l i switchValue caseBlocks currentBlock x = .ok (r, g') → Grows a g' := by
  induction l with
  | nil =>
    intro i switchValue caseBlocks currentBlock a x g' r h e
    rw [taggedSwitchValues_nil_eq] at e
    cases e
    exact h
  | cons caseValue rest ihl =>
    intro i switchValue caseBlocks currentBlock a x g' r h e
    have ih1 := ih caseValue (List.mem_cons_self _ _)
    have ihr := ihl (fun e he => ih e (List.mem_cons_of_mem _ he))
    rw [taggedSwitchValues_cons_eq] at e
    try simp only [IRGenerator.NewAlloca, IRGenerator.NewLoad, IRGenerator.NewBin, IRGenerator.NewICmp, IRGenerator.NewFCmp, IRGenerator.NewGetElementPtr, IRGenerator.funcValue, NewCall_func, IRGenerator.NewCall, IRGenerator.NewZExt, IRGenerator.NewSelect, IRGenerator.NewBr, IRGenerator.NewCondBr, IRGenerator.NewRet, IRGenerator.NewUnreachable, IRGenerator.NewFunc, IRGenerator.NewGlobalDef] at e
    repeat' (first
      | (first | (revert e; with_reducible apply (h.asResult); done) | (revert e; with_reducible apply (h.failWith); done) | (revert e; with_reducible apply (h.NewInst); done) | (revert e; with_reducible apply (h.NewStore); done) | (revert e; with_reducible apply (h.NewTerm); done) | (revert e; with_reducible apply (h.NewBlock); done) | (revert e; with_reducible apply (ih1.grows h); done) | (revert e; with_reducible apply (ihr _ _ _ _ _ _ _ _ h.ext); done) | fail)
      | (apply stepWith e; (focus (with_reducible apply (@ite_ok _ _ _ _ _ _); done)); intro e2
         clear e
         rcases e2 with ⟨_, e⟩ | ⟨_, e⟩)
      | (simp only [bind_assoc, pure_bind] at e)
      | (rw [bind_ok] at e
         obtain ⟨⟨x1, g1⟩, e1, e⟩ := e
         try dsimp only at e
         first
           | (apply stepWith e1; (focus (with_reducible apply (h.NewInst); done)); clear h; intro h) | (apply stepWith e1; (focus (with_reducible apply (h.NewStore); done)); clear h; intro h) | (apply stepWith e1; (focus (with_reducible apply (h.NewTerm); done)); clear h; intro h) | (apply stepWith e1; (focus (with_reducible apply (h.NewBlock); done)); clear h; intro h) | (apply stepWith e1; (focus (with_reducible apply (ih1.grows h); done)); clear h; intro h) | (apply stepWith e1; (focus (with_reducible apply (ihr _ _ _ _ _ _ _ _ h.ext); done)); clear h; intro h)
           | (cases e1)
           | (refine Grows.cut (b := g1) ?_ ?_ <;>
               first | (intro h2; clear h e1; rename' h2 => h) | (clear e; rename' e1 => e))
           | fail)
      | (split at e <;>
         try (rename_i heq
              first | (apply stepWith heq; (focus (with_reducible apply (h.NewInst); done)); clear h; intro h) | (apply stepWith heq; (focus (with_reducible apply (h.NewStore); done)); clear h; intro h) | (apply stepWith heq; (focus (with_reducible apply (h.NewTerm); done)); clear h; intro h) | (apply stepWith heq; (focus (with_reducible apply (h.NewBlock); done)); clear h; intro h) | (apply stepWith heq; (focus (with_reducible apply (ih1.grows h); done)); clear h; intro h) | (apply stepWith heq; (focus (with_reducible apply (ihr _ _ _ _ _ _ _ _ h.ext); done)); clear h; intro h) | fail))
      | (cases e; first | done | exact h.ext | fail)
      | (dsimp only at e)
      | fail)

theorem Grows.taggedSwitchValues {l : List Expression} (ih : ∀ e ∈ l, ExprOK e) {a g x g' : IRGenerator}
    [Ext g x] {i : Nat} {switchValue : Value} {caseBlocks : List Nat} {currentBlock : Option Nat} {r : Option Nat} (h : Grows a g)
    (e : taggedSwitchValues l i switchValue caseBlocks currentBlock x = .ok (r, g')) : Grows a g' :=
  taggedSwitchValues_grows l ih _ _ _ _ a x g' r h.ext e

theorem booleanSwitchValues_grows (l : List Expression) (ih : ∀ e ∈ l, ExprOK e) :
    ∀ (j : Nat) (condition : Option Value) (currentBlock : Option Nat) (a x g' : IRGenerator) (r : Option Value), Grows a x →
      booleanSwitchValues l j condition currentBlock x = .ok (r, g') → Grows a g' := by
  induction l with
  | nil =>
    intro j condition currentBlock a x g' r h e
    rw [booleanSwitchValues_nil_eq] at e
    cases e
    exact h
  | cons caseValue rest ihl =>
    intro j condition currentBlock a x g' r h e
    have ih1 := ih caseValue (List.mem_cons_self _ _)
    have ihr := ihl (fun e he => ih e (List.mem_cons_of_mem _ he))
    rw [booleanSwitchValues_cons_eq] at e
    try simp only [IRGenerator.NewAlloca, IRGenerator.NewLoad, IRGenerator.NewBin, IRGenerator.NewICmp, IRGenerator.NewFCmp, IRGenerator.NewGetElementPtr, IRGenerator.funcValue, NewCall_func, IRGenerator.NewCall, IRGenerator.NewZExt, IRGenerator.NewSelect, IRGenerator.NewBr, IRGenerator.NewCondBr, IRGenerator.NewRet, IRGenerator.NewUnreachable, IRGenerator.NewFunc, IRGenerator.NewGlobalDef] at e
    repeat' (first
      | (first | (revert e; with_reducible apply (h.asResult); done) | (revert e; with_reducible apply (h.failWith); done) | (revert e; with_reducible apply (h.NewInst); done) | (revert e; with_reducible apply (h.NewStore); done) | (revert e; with_reducible apply (h.NewTerm); done) | (revert e; with_reducible apply (h.NewBlock); done) | (revert e; with_reducible apply (ih1.grows h); done) | (revert e; with_reducible apply (ihr _ _ _ _ _ _ _ h.ext); done) | fail)
      | (apply stepWith e; (focus (with_reducible apply (@ite_ok _ _ _ _ _ _); done)); intro e2
         clear e
         rcases e2 with ⟨_, e⟩ | ⟨_, e⟩)
      | (simp only [bind_assoc, pure_bind] at e)
      | (rw [bind_ok] at e
         obtain ⟨⟨x1, g1⟩, e1, e⟩ := e
         try dsimp only at e
         first
           | (apply stepWith e1; (focus (with_reducible apply (h.NewInst); done)); clear h; intro h) | (apply stepWith e1; (focus (with_reducible apply (h.NewStore); done)); clear h; intro h) | (apply stepWith e1; (focus (with_reducible apply (h.NewTerm); done)); clear h; intro h) | (apply stepWith e1; (focus (with_reducible apply (h.NewBlock); done)); clear h; intro h) | (apply stepWith e1; (focus (with_reducible apply (ih1.grows h); done)); clear h; intro h) | (apply stepWith e1; (focus (with_reducible apply (ihr _ _ _ _ _ _ _ h.ext); done)); clear h; intro h)
           | (cases e1)
           | (refine Grows.cut (b := g1) ?_ ?_ <;>
               first | (intro h2; clear h e1; rename' h2 => h) | (clear e; rename' e1 => e))
           | fail)
      | (split at e <;>
         try (rename_i heq
              first | (apply stepWith heq; (focus (with_reducible apply (h.NewInst); done)); clear h; intro h) | (apply stepWith heq; (focus (with_reducible apply (h.NewStore); done)); clear h; intro h) | (apply stepWith heq; (focus (with_reducible apply (h.NewTerm); done)); clear h; intro h) | (apply stepWith heq; (focus (with_reducible apply (h.NewBlock); done)); clear h; intro h) | (apply stepWith heq; (focus (with_reducible apply (ih1.grows h); done)); clear h; intro h) | (apply stepWith heq; (focus (with_reducible apply (ihr _ _ _ _ _ _ _ h.ext); done)); clear h; intro h) | fail))
      | (cases e; first | done | exact h.ext | fail)
      | (dsimp only at e)
      | fail)

theorem Grows.booleanSwitchValues {l : List Expression} (ih : ∀ e ∈ l, ExprOK e) {a g x g' : IRGenerator}
    [Ext g x] {j : Nat} {condition : Option Value} {currentBlock : Option Nat} {r : Option Value} (h : Grows a g)
    (e : booleanSwitchValues l j condition currentBlock x = .ok (r, g')) : Grows a g' :=
  booleanSwitchValues_grows l ih _ _ _ a x g' r h.ext e

theorem generateBlockStatement_grows (l : List Statement) (ih : ∀ e ∈ l, StmtOK e) :
    ∀ (a x g' : IRGenerator) (r : Unit), Grows a x →
      generateBlockStatement l x = .ok (r, g') → Grows a g' := by
  induction l with
  | nil =>
    intro a x g' r h e
    rw [generateBlockStatement_nil_eq] at e
    cases e
    exact h
  | cons s rest ihl =>
    intro a x g' r h e
    have ih1 := ih s (List.mem_cons_self _ _)
    have ihr := ihl (fun e he => ih e (List.mem_cons_of_mem _ he))
    rw [generateBlockStatement_cons_eq] at e
    try simp only [IRGenerator.NewAlloca, IRGenerator.NewLoad, IRGenerator.NewBin, IRGenerator.NewICmp, IRGenerator.NewFCmp, IRGenerator.NewGetElementPtr, IRGenerator.funcValue, NewCall_func, IRGenerator.NewCall, IRGenerator.NewZExt, IRGenerator.NewSelect, IRGenerator.NewBr, IRGenerator.NewCondBr, IRGenerator.NewRet, IRGenerator.NewUnreachable, IRGenerator.NewFunc, IRGenerator.NewGlobalDef] at e
    repeat' (first
      | (first | (revert e; with_reducible apply (h.asResult); done) | (revert e; with_reducible apply (h.failWith); done) | (revert e; with_reducible apply (h.NewInst); done) | (revert e; with_reducible apply (h.NewStore); done) | (revert e; with_reducible apply (h.NewTerm); done) | (revert e; with_reducible apply (h.NewBlock); done) | (revert e; with_reducible apply (ih1.grows h); done) | (revert e; with_reducible apply (ihr _ _ _ _ h.ext); done) | fail)
      | (apply stepWith e; (focus (with_reducible apply (@ite_ok _ _ _ _ _ _); done)); intro e2
         clear e
         rcases e2 with ⟨_, e⟩ | ⟨_, e⟩)
      | (simp only [bind_assoc, pure_bind] at e)
      | (rw [bind_ok] at e
         obtain ⟨⟨x1, g1⟩, e1, e⟩ := e
         try dsimp only at e
         first
           | (apply stepWith e1; (focus (with_reducible apply (h.NewInst); done)); clear h; intro h) | (apply stepWith e1; (focus (with_reducible apply (h.NewStore); done)); clear h; intro h) | (apply stepWith e1; (focus (with_reducible apply (h.NewTerm); done)); clear h; intro h) | (apply stepWith e1; (focus (with_reducible apply (h.NewBlock); done)); clear h; intro h) | (apply stepWith e1; (focus (with_reducible apply (ih1.grows h); done)); clear h; intro h) | (apply stepWith e1; (focus (with_reducible apply (ihr _ _ _ _ h.ext); done)); clear h; intro h)
           | (cases e1)
           | (refine Grows.cut (b := g1) ?_ ?_ <;>
               first | (intro h2; clear h e1; rename' h2 => h) | (clear e; rename' e1 => e))
           | fail)
      | (split at e <;>
         try (rename_i heq
              first | (apply stepWith heq; (focus (with_reducible apply (h.NewInst); done)); clear h; intro h) | (apply stepWith heq; (focus (with_reducible apply (h.NewStore); done)); clear h; intro h) | (apply stepWith heq; (focus (with_reducible apply (h.NewTerm); done)); clear h; intro h) | (apply stepWith heq; (focus (with_reducible apply (h.NewBlock); done)); clear h; intro h) | (apply stepWith heq; (focus (with_reducible apply (ih1.grows h); done)); clear h; intro h) | (apply stepWith heq; (focus (with_reducible apply (ihr _ _ _ _ h.ext); done)); clear h; intro h) | fail))
      | (cases e; first | done | exact h.ext | fail)
      | (dsimp only at e)
      | fail)

theorem Grows.generateBlockStatement {l : List Statement} (ih : ∀ e ∈ l, StmtOK e) {a g x g' : IRGenerator}
    [Ext g x] {r : Unit} (h : Grows a g)
    (e : generateBlockStatement l x = .ok (r, g')) : Grows a g' :=
  generateBlockStatement_grows l ih a x g' r h.ext e

theorem caseBody_grows (l : List Statement) (ih : ∀ e ∈ l, StmtOK e) :
    ∀ (a x g' : IRGenerator) (r : Unit), Grows a x →
      caseBody l x = .ok (r, g') → Grows a g' := by
  induction l with
  | nil =>
    intro a x g' r h e
    rw [caseBody_nil_eq] at e
    cases e
    exact h
  | cons s rest ihl =>
    intro a x g' r h e
    have ih1 := ih s (List.mem_cons_self _ _)
    have ihr := ihl (fun e he => ih e (List.mem_cons_of_mem _ he))
    rw [caseBody_cons_eq] at e
    try simp only [IRGenerator.NewAlloca, IRGenerator.NewLoad, IRGenerator.NewBin, IRGenerator.NewICmp, IRGenerator.NewFCmp, IRGenerator.NewGetElementPtr, IRGenerator.funcValue, NewCall_func, IRGenerator.NewCall, IRGenerator.NewZExt, IRGenerator.NewSelect, IRGenerator.NewBr, IRGenerator.NewCondBr, IRGenerator.NewRet, IRGenerator.NewUnreachable, IRGenerator.NewFunc, IRGenerator.NewGlobalDef] at e
    repeat' (first
      | (first | (revert e; with_reducible apply (h.asResult); done) | (revert e; with_reducible apply (h.failWith); done) | (revert e; with_reducible apply (h.NewInst); done) | (revert e; with_reducible apply (h.NewStore); done) | (revert e; with_reducible apply (h.NewTerm); done) | (revert e; with_reducible apply (h.NewBlock); done) | (revert e; with_reducible apply (ih1.grows h); done) | (revert e; with_reducible apply (ihr _ _ _ _ h.ext); done) | fail)
      | (apply stepWith e; (focus (with_reducible apply (@ite_ok _ _ _ _ _ _); done)); intro e2
         clear e
         rcases e2 with ⟨_, e⟩ | ⟨_, e⟩)
      | (simp only [bind_assoc, pure_bind] at e)
      | (rw [bind_ok] at e
         obtain ⟨⟨x1, g1⟩, e1, e⟩ := e
         try dsimp only at e
         first
           | (apply stepWith e1; (focus (with_reducible apply (h.NewInst); done)); clear h; intro h) | (apply stepWith e1; (focus (with_reducible apply (h.NewStore); done)); clear h; intro h) | (apply stepWith e1; (focus (with_reducible apply (h.NewTerm); done)); clear h; intro h) | (apply stepWith e1; (focus (with_reducible apply (h.NewBlock); done)); clear h; intro h) | (apply stepWith e1; (focus (with_reducible apply (ih1.grows h); done)); clear h; intro h) | (apply stepWith e1; (focus (with_reducible apply (ihr _ _ _ _ h.ext); done)); clear h; intro h)
           | (cases e1)
           | (refine Grows.cut (b := g1) ?_ ?_ <;>
               first | (intro h2; clear h e1; rename' h2 => h) | (clear e; rename' e1 => e))
           | fail)
      | (split at e <;>
         try (rename_i heq
              first | (apply stepWith heq; (focus (with_reducible apply (h.NewInst); done)); clear h; intro h) | (apply stepWith heq; (focus (with_reducible apply (h.NewStore); done)); clear h; intro h) | (apply stepWith heq; (focus (with_reducible apply (h.NewTerm); done)); clear h; intro h) | (apply stepWith heq; (focus (with_reducible apply (h.NewBlock); done)); clear h; intro h) | (apply stepWith heq; (focus (with_reducible apply (ih1.grows h); done)); clear h; intro h) | (apply stepWith heq; (focus (with_reducible apply (ihr _ _ _ _ h.ext); done)); clear h; intro h) | fail))
      | (cases e; first | done | exact h.ext | fail)
      | (dsimp only at e)
      | fail)

theorem Grows.caseBody {l : List Statement} (ih : ∀ e ∈ l, StmtOK e) {a g x g' : IRGenerator}
    [Ext g x] {r : Unit} (h : Grows a g)
    (e : caseBody l x = .ok (r, g')) : Grows a g' :=
  caseBody_grows l ih a x g' r h.ext e

theorem Grows.generateLenCall {l : List Expression} (ih : ∀ e ∈ l, ExprOK e)
    {a g x g' : IRGenerator} [Ext g x] {r : Option Value} (h : Grows a g)
    (e : generateLenCall l x = .ok (r, g')) : Grows a g' := by
  replace h : Grows a x := h.ext
  rcases l with _ | ⟨a, _ | ⟨b, rest⟩⟩
  · rw [generateLenCall_nil_eq] at e
    try simp only [IRGenerator.NewAlloca, IRGenerator.NewLoad, IRGenerator.NewBin, IRGenerator.NewICmp, IRGenerator.NewFCmp, IRGenerator.NewGetElementPtr, IRGenerator.funcValue, NewCall_func, IRGenerator.NewCall, IRGenerator.NewZExt, IRGenerator.NewSelect, IRGenerator.NewBr, IRGenerator.NewCondBr, IRGenerator.NewRet, IRGenerator.NewUnreachable, IRGenerator.NewFunc, IRGenerator.NewGlobalDef] at e
    repeat' (first
      | (first | (revert e; with_reducible apply (h.asResult); done) | (revert e; with_reducible apply (h.failWith); done) | (revert e; with_reducible apply (h.NewInst); done) | (revert e; with_reducible apply (h.NewStore); done) | (revert e; with_reducible apply (h.NewTerm); done) | (revert e; with_reducible apply (h.NewBlock); done) | fail)
      | (apply stepWith e; (focus (with_reducible apply (@ite_ok _ _ _ _ _ _); done)); intro e2
         clear e
         rcases e2 with ⟨_, e⟩ | ⟨_, e⟩)
      | (simp only [bind_assoc, pure_bind] at e)
      | (rw [bind_ok] at e
         obtain ⟨⟨x1, g1⟩, e1, e⟩ := e
         try dsimp only at e
         first
           | (apply stepWith e1; (focus (with_reducible apply (h.NewInst); done)); clear h; intro h) | (apply stepWith e1; (focus (with_reducible apply (h.NewStore); done)); clear h; intro h) | (apply stepWith e1; (focus (with_reducible apply (h.NewTerm); done)); clear h; intro h) | (apply stepWith e1; (focus (with_reducible apply (h.NewBlock); done)); clear h; intro h)
           | (cases e1)
           | (refine Grows.cut (b := g1) ?_ ?_ <;>
               first | (intro h2; clear h e1; rename' h2 => h) | (clear e; rename' e1 => e))
           | fail)
      | (split at e <;>
         try (rename_i heq
              first | (apply stepWith heq; (focus (with_reducible apply (h.NewInst); done)); clear h; intro h) | (apply stepWith heq; (focus (with_reducible apply (h.NewStore); done)); clear h; intro h) | (apply stepWith heq; (focus (with_reducible apply (h.NewTerm); done)); clear h; intro h) | (apply stepWith heq; (focus (with_reducible apply (h.NewBlock); done)); clear h; intro h) | fail))
      | (cases e; first | done | exact h.ext | fail)
      | (dsimp only at e)
      | fail)
  · rw [generateLenCall_one_eq] at e
    have ih0 := ih _ (List.mem_cons_self _ _)
    try simp only [IRGenerator.NewAlloca, IRGenerator.NewLoad, IRGenerator.NewBin, IRGenerator.NewICmp, IRGenerator.NewFCmp, IRGenerator.NewGetElementPtr, IRGenerator.funcValue, NewCall_func, IRGenerator.NewCall, IRGenerator.NewZExt, IRGenerator.NewSelect, IRGenerator.NewBr, IRGenerator.NewCondBr, IRGenerator.NewRet, IRGenerator.NewUnreachable, IRGenerator.NewFunc, IRGenerator.NewGlobalDef] at e
    repeat' (first
      | (first | (revert e; with_reducible apply (h.asResult); done) | (revert e; with_reducible apply (h.failWith); done) | (revert e; with_reducible apply (h.NewInst); done) | (revert e; with_reducible apply (h.NewStore); done) | (revert e; with_reducible apply (h.NewTerm); done) | (revert e; with_reducible apply (h.NewBlock); done) | (revert e; with_reducible apply (ih0.grows h); done) | (revert e; with_reducible apply (h.lenOrCap); done) | fail)
      | (apply stepWith e; (focus (with_reducible apply (@ite_ok _ _ _ _ _ _); done)); intro e2
         clear e
         rcases e2 with ⟨_, e⟩ | ⟨_, e⟩)
      | (simp only [bind_assoc, pure_bind] at e)
      | (rw [bind_ok] at e
         obtain ⟨⟨x1, g1⟩, e1, e⟩ := e
         try dsimp only at e
         first
           | (apply stepWith e1; (focus (with_reducible apply (h.NewInst); done)); clear h; intro h) | (apply stepWith e1; (focus (with_reducible apply (h.NewStore); done)); clear h; intro h) | (apply stepWith e1; (focus (with_reducible apply (h.NewTerm); done)); clear h; intro h) | (apply stepWith e1; (focus (with_reducible apply (h.NewBlock); done)); clear h; intro h) | (apply stepWith e1; (focus (with_reducible apply (ih0.grows h); done)); clear h; intro h) | (apply stepWith e1; (focus (with_reducible apply (h.lenOrCap); done)); clear h; intro h)
           | (cases e1)
           | (refine Grows.cut (b := g1) ?_ ?_ <;>
               first | (intro h2; clear h e1; rename' h2 => h) | (clear e; rename' e1 => e))
           | fail)
      | (split at e <;>
         try (rename_i heq
              first | (apply stepWith heq; (focus (with_reducible apply (h.NewInst); done)); clear h; intro h) | (apply stepWith heq; (focus (with_reducible apply (h.NewStore); done)); clear h; intro h) | (apply stepWith heq; (focus (with_reducible apply (h.NewTerm); done)); clear h; intro h) | (apply stepWith heq; (focus (with_reducible apply (h.NewBlock); done)); clear h; intro h) | (apply stepWith heq; (focus (with_reducible apply (ih0.grows h); done)); clear h; intro h) | (apply stepWith heq; (focus (with_reducible apply (h.lenOrCap); done)); clear h; intro h) | fail))
      | (cases e; first | done | exact h.ext | fail)
      | (dsimp only at e)
      | fail)
  · rw [generateLenCall_more_eq] at e
    try simp only [IRGenerator.NewAlloca, IRGenerator.NewLoad, IRGenerator.NewBin, IRGenerator.NewICmp, IRGenerator.NewFCmp, IRGenerator.NewGetElementPtr, IRGenerator.funcValue, NewCall_func, IRGenerator.NewCall, IRGenerator.NewZExt, IRGenerator.NewSelect, IRGenerator.NewBr, IRGenerator.NewCondBr, IRGenerator.NewRet, IRGenerator.NewUnreachable, IRGenerator.NewFunc, IRGenerator.NewGlobalDef] at e
    repeat' (first
      | (first | (revert e; with_reducible apply (h.asResult); done) | (revert e; with_reducible apply (h.failWith); done) | (revert e; with_reducible apply (h.NewInst); done) | (revert e; with_reducible apply (h.NewStore); done) | (revert e; with_reducible apply (h.NewTerm); done) | (revert e; with_reducible apply (h.NewBlock); done) | fail)
      | (apply stepWith e; (focus (with_reducible apply (@ite_ok _ _ _ _ _ _); done)); intro e2
         clear e
         rcases e2 with ⟨_, e⟩ | ⟨_, e⟩)
      | (simp only [bind_assoc, pure_bind] at e)
      | (rw [bind_ok] at e
         obtain ⟨⟨x1, g1⟩, e1, e⟩ := e
         try dsimp only at e
         first
           | (apply stepWith e1; (focus (with_reducible apply (h.NewInst); done)); clear h; intro h) | (apply stepWith e1; (focus (with_reducible apply (h.NewStore); done)); clear h; intro h) | (apply stepWith e1; (focus (with_reducible apply (h.NewTerm); done)); clear h; intro h) | (apply stepWith e1; (focus (with_reducible apply (h.NewBlock); done)); clear h; intro h)
           | (cases e1)
           | (refine Grows.cut (b := g1) ?_ ?_ <;>
               first | (intro h2; clear h e1; rename' h2 => h) | (clear e; rename' e1 => e))
           | fail)
      | (split at e <;>
         try (rename_i heq
              first | (apply stepWith heq; (focus (with_reducible apply (h.NewInst); done)); clear h; intro h) | (apply stepWith heq; (focus (with_reducible apply (h.NewStore); done)); clear h; intro h) | (apply stepWith heq; (focus (with_reducible apply (h.NewTerm); done)); clear h; intro h) | (apply stepWith heq; (focus (with_reducible apply (h.NewBlock); done)); clear h; intro h) | fail))
      | (cases e; first | done | exact h.ext | fail)
      | (dsimp only at e)
      | fail)

theorem Grows.generateCapCall {l : List Expression} (ih : ∀ e ∈ l, ExprOK e)
    {a g x g' : IRGenerator} [Ext g x] {r : Option Value} (h : Grows a g)
    (e : generateCapCall l x = .ok (r, g')) : Grows a g' := by
  replace h : Grows a x := h.ext
  rcases l with _ | ⟨a, _ | ⟨b, rest⟩⟩
  · rw [generateCapCall_nil_eq] at e
    try simp only [IRGenerator.NewAlloca, IRGenerator.NewLoad, IRGenerator.NewBin, IRGenerator.NewICmp, IRGenerator.NewFCmp, IRGenerator.NewGetElementPtr, IRGenerator.funcValue, NewCall_func, IRGenerator.NewCall, IRGenerator.NewZExt, IRGenerator.NewSelect, IRGenerator.NewBr, IRGenerator.NewCondBr, IRGenerator.NewRet, IRGenerator.NewUnreachable, IRGenerator.NewFunc, IRGenerator.NewGlobalDef] at e
    repeat' (first
      | (first | (revert e; with_reducible apply (h.asResult); done) | (revert e; with_reducible apply (h.failWith); done) | (revert e; with_reducible apply (h.NewInst); done) | (revert e; with_reducible apply (h.NewStore); done) | (revert e; with_reducible apply (h.NewTerm); done) | (revert e; with_reducible apply (h.NewBlock); done) | fail)
      | (apply stepWith e; (focus (with_reducible apply (@ite_ok _ _ _ _ _ _); done)); intro e2
         clear e
         rcases e2 with ⟨_, e⟩ | ⟨_, e⟩)
      | (simp only [bind_assoc, pure_bind] at e)
      | (rw [bind_ok] at e
         obtain ⟨⟨x1, g1⟩, e1, e⟩ := e
         try dsimp only at e
         first
           | (apply stepWith e1; (focus (with_reducible apply (h.NewInst); done)); clear h; intro h) | (apply stepWith e1; (focus (with_reducible apply (h.NewStore); done)); clear h; intro h) | (apply stepWith e1; (focus (with_reducible apply (h.NewTerm); done)); clear h; intro h) | (apply stepWith e1; (focus (with_reducible apply (h.NewBlock); done)); clear h; intro h)
           | (cases e1)
           | (refine Grows.cut (b := g1) ?_ ?_ <;>
               first | (intro h2; clear h e1; rename' h2 => h) | (clear e; rename' e1 => e))
           | fail)
      | (split at e <;>
         try (rename_i heq
              first | (apply stepWith heq; (focus (with_reducible apply (h.NewInst); done)); clear h; intro h) | (apply stepWith heq; (focus (with_reducible apply (h.NewStore); done)); clear h; intro h) | (apply stepWith heq; (focus (with_reducible apply (h.NewTerm); done)); clear h; intro h) | (apply stepWith heq; (focus (with_reducible apply (h.NewBlock); done)); clear h; intro h) | fail))
      | (cases e; first | done | exact h.ext | fail)
      | (dsimp only at e)
      | fail)
  · rw [generateCapCall_one_eq] at e
    have ih0 := ih _ (List.mem_cons_self _ _)
    try simp only [IRGenerator.NewAlloca, IRGenerator.NewLoad, IRGenerator.NewBin, IRGenerator.NewICmp, IRGenerator.NewFCmp, IRGenerator.NewGetElementPtr, IRGenerator.funcValue, NewCall_func, IRGenerator.NewCall, IRGenerator.NewZExt, IRGenerator.NewSelect, IRGenerator.NewBr, IRGenerator.NewCondBr, IRGenerator.NewRet, IRGenerator.NewUnreachable, IRGenerator.NewFunc, IRGenerator.NewGlobalDef] at e
    repeat' (first
      | (first | (revert e; with_reducible apply (h.asResult); done) | (revert e; with_reducible apply (h.failWith); done) | (revert e; with_reducible apply (h.NewInst); done) | (revert e; with_reducible apply (h.NewStore); done) | (revert e; with_reducible apply (h.NewTerm); done) | (revert e; with_reducible apply (h.NewBlock); done) | (revert e; with_reducible apply (ih0.grows h); done) | (revert e; with_reducible apply (h.lenOrCap); done) | fail)
      | (apply stepWith e; (focus (with_reducible apply (@ite_ok _ _ _ _ _ _); done)); intro e2
         clear e
         rcases e2 with ⟨_, e⟩ | ⟨_, e⟩)
      | (simp only [bind_assoc, pure_bind] at e)
      | (rw [bind_ok] at e
         obtain ⟨⟨x1, g1⟩, e1, e⟩ := e
         try dsimp only at e
         first
           | (apply stepWith e1; (focus (with_reducible apply (h.NewInst); done)); clear h; intro h) | (apply stepWith e1; (focus (with_reducible apply (h.NewStore); done)); clear h; intro h) | (apply stepWith e1; (focus (with_reducible apply (h.NewTerm); done)); clear h; intro h) | (apply stepWith e1; (focus (with_reducible apply (h.NewBlock); done)); clear h; intro h) | (apply stepWith e1; (focus (with_reducible apply (ih0.grows h); done)); clear h; intro h) | (apply stepWith e1; (focus (with_reducible apply (h.lenOrCap); done)); clear h; intro h)
           | (cases e1)
           | (refine Grows.cut (b := g1) ?_ ?_ <;>
               first | (intro h2; clear h e1; rename' h2 => h) | (clear e; rename' e1 => e))
           | fail)
      | (split at e <;>
         try (rename_i heq
              first | (apply stepWith heq; (focus (with_reducible apply (h.NewInst); done)); clear h; intro h) | (apply stepWith heq; (focus (with_reducible apply (h.NewStore); done)); clear h; intro h) | (apply stepWith heq; (focus (with_reducible apply (h.NewTerm); done)); clear h; intro h) | (apply stepWith heq; (focus (with_reducible apply (h.NewBlock); done)); clear h; intro h) | (apply stepWith heq; (focus (with_reducible apply (ih0.grows h); done)); clear h; intro h) | (apply stepWith heq; (focus (with_reducible apply (h.lenOrCap); done)); clear h; intro h) | fail))
      | (cases e; first | done | exact h.ext | fail)
      | (dsimp only at e)
      | fail)
  · rw [generateCapCall_more_eq] at e
    try simp only [IRGenerator.NewAlloca, IRGenerator.NewLoad, IRGenerator.NewBin, IRGenerator.NewICmp, IRGenerator.NewFCmp, IRGenerator.NewGetElementPtr, IRGenerator.funcValue, NewCall_func, IRGenerator.NewCall, IRGenerator.NewZExt, IRGenerator.NewSelect, IRGenerator.NewBr, IRGenerator.NewCondBr, IRGenerator.NewRet, IRGenerator.NewUnreachable, IRGenerator.NewFunc, IRGenerator.NewGlobalDef] at e
    repeat' (first
      | (first | (revert e; with_reducible apply (h.asResult); done) | (revert e; with_reducible apply (h.failWith); done) | (revert e; with_reducible apply (h.NewInst); done) | (revert e; with_reducible apply (h.NewStore); done) | (revert e; with_reducible apply (h.NewTerm); done) | (revert e; with_reducible apply (h.NewBlock); done) | fail)
      | (apply stepWith e; (focus (with_reducible apply (@ite_ok _ _ _ _ _ _); done)); intro e2
         clear e
         rcases e2 with ⟨_, e⟩ | ⟨_, e⟩)
      | (simp only [bind_assoc, pure_bind] at e)
      | (rw [bind_ok] at e
         obtain ⟨⟨x1, g1⟩, e1, e⟩ := e
         try dsimp only at e
         first
           | (apply stepWith e1; (focus (with_reducible apply (h.NewInst); done)); clear h; intro h) | (apply stepWith e1; (focus (with_reducible apply (h.NewStore); done)); clear h; intro h) | (apply stepWith e1; (focus (with_reducible apply (h.NewTerm); done)); clear h; intro h) | (apply stepWith e1; (focus (with_reducible apply (h.NewBlock); done)); clear h; intro h)
           | (cases e1)
           | (refine Grows.cut (b := g1) ?_ ?_ <;>
               first | (intro h2; clear h e1; rename' h2 => h) | (clear e; rename' e1 => e))
           | fail)
      | (split at e <;>
         try (rename_i heq
              first | (apply stepWith heq; (focus (with_reducible apply (h.NewInst); done)); clear h; intro h) | (apply stepWith heq; (focus (with_reducible apply (h.NewStore); done)); clear h; intro h) | (apply stepWith heq; (focus (with_reducible apply (h.NewTerm); done)); clear h; intro h) | (apply stepWith heq; (focus (with_reducible apply (h.NewBlock); done)); clear h; intro h) | fail))
      | (cases e; first | done | exact h.ext | fail)
      | (dsimp only at e)
      | fail)

theorem Grows.generateAppendCall {l : List Expression} (ih : ∀ e ∈ l, ExprOK e)
    {a g x g' : IRGenerator} [Ext g x] {r : Option Value} (h : Grows a g)
    (e : generateAppendCall l x = .ok (r, g')) : Grows a g' := by
  replace h : Grows a x := h.ext
  rcases l with _ | ⟨a, _ | ⟨b, rest⟩⟩
  · rw [generateAppendCall_nil_eq] at e
    try simp only [IRGenerator.NewAlloca, IRGenerator.NewLoad, IRGenerator.NewBin, IRGenerator.NewICmp, IRGenerator.NewFCmp, IRGenerator.NewGetElementPtr, IRGenerator.funcValue, NewCall_func, IRGenerator.NewCall, IRGenerator.NewZExt, IRGenerator.NewSelect, IRGenerator.NewBr, IRGenerator.NewCondBr, IRGenerator.NewRet, IRGenerator.NewUnreachable, IRGenerator.NewFunc, IRGenerator.NewGlobalDef] at e
    repeat' (first
      | (first | (revert e; with_reducible apply (h.asResult); done) | (revert e; with_reducible apply (h.failWith); done) | (revert e; with_reducible apply (h.NewInst); done) | (revert e; with_reducible apply (h.NewStore); done) | (revert e; with_reducible apply (h.NewTerm); done) | (revert e; with_reducible apply (h.NewBlock); done) | fail)
      | (apply stepWith e; (focus (with_reducible apply (@ite_ok _ _ _ _ _ _); done)); intro e2
         clear e
         rcases e2 with ⟨_, e⟩ | ⟨_, e⟩)
      | (simp only [bind_assoc, pure_bind] at e)
      | (rw [bind_ok] at e
         obtain ⟨⟨x1, g1⟩, e1, e⟩ := e
         try dsimp only at e
         first
           | (apply stepWith e1; (focus (with_reducible apply (h.NewInst); done)); clear h; intro h) | (apply stepWith e1; (focus (with_reducible apply (h.NewStore); done)); clear h; intro h) | (apply stepWith e1; (focus (with_reducible apply (h.NewTerm); done)); clear h; intro h) | (apply stepWith e1; (focus (with_reducible apply (h.NewBlock); done)); clear h; intro h)
           | (cases e1)
           | (refine Grows.cut (b := g1) ?_ ?_ <;>
               first | (intro h2; clear h e1; rename' h2 => h) | (clear e; rename' e1 => e))
           | fail)
      | (split at e <;>
         try (rename_i heq
              first | (apply stepWith heq; (focus (with_reducible apply (h.NewInst); done)); clear h; intro h) | (apply stepWith heq; (focus (with_reducible apply (h.NewStore); done)); clear h; intro h) | (apply stepWith heq; (focus (with_reducible apply (h.NewTerm); done)); clear h; intro h) | (apply stepWith heq; (focus (with_reducible apply (h.NewBlock); done)); clear h; intro h) | fail))
      | (cases e; first | done | exact h.ext | fail)
      | (dsimp only at e)
      | fail)
  · rw [generateAppendCall_one_eq] at e
    try simp only [IRGenerator.NewAlloca, IRGenerator.NewLoad, IRGenerator.NewBin, IRGenerator.NewICmp, IRGenerator.NewFCmp, IRGenerator.NewGetElementPtr, IRGenerator.funcValue, NewCall_func, IRGenerator.NewCall, IRGenerator.NewZExt, IRGenerator.NewSelect, IRGenerator.NewBr, IRGenerator.NewCondBr, IRGenerator.NewRet, IRGenerator.NewUnreachable, IRGenerator.NewFunc, IRGenerator.NewGlobalDef] at e
    repeat' (first
      | (first | (revert e; with_reducible apply (h.asResult); done) | (revert e; with_reducible apply (h.failWith); done) | (revert e; with_reducible apply (h.NewInst); done) | (revert e; with_reducible apply (h.NewStore); done) | (revert e; with_reducible apply (h.NewTerm); done) | (revert e; with_reducible apply (h.NewBlock); done) | fail)
      | (apply stepWith e; (focus (with_reducible apply (@ite_ok _ _ _ _ _ _); done)); intro e2
         clear e
         rcases e2 with ⟨_, e⟩ | ⟨_, e⟩)
      | (simp only [bind_assoc, pure_bind] at e)
      | (rw [bind_ok] at e
         obtain ⟨⟨x1, g1⟩, e1, e⟩ := e
         try dsimp only at e
         first
           | (apply stepWith e1; (focus (with_reducible apply (h.NewInst); done)); clear h; intro h) | (apply stepWith e1; (focus (with_reducible apply (h.NewStore); done)); clear h; intro h) | (apply stepWith e1; (focus (with_reducible apply (h.NewTerm); done)); clear h; intro h) | (apply stepWith e1; (focus (with_reducible apply (h.NewBlock); done)); clear h; intro h)
           | (cases e1)
           | (refine Grows.cut (b := g1) ?_ ?_ <;>
               first | (intro h2; clear h e1; rename' h2 => h) | (clear e; rename' e1 => e))
           | fail)
      | (split at e <;>
         try (rename_i heq
              first | (apply stepWith heq; (focus (with_reducible apply (h.NewInst); done)); clear h; intro h) | (apply stepWith heq; (focus (with_reducible apply (h.NewStore); done)); clear h; intro h) | (apply stepWith heq; (focus (with_reducible apply (h.NewTerm); done)); clear h; intro h) | (apply stepWith heq; (focus (with_reducible apply (h.NewBlock); done)); clear h; intro h) | fail))
      | (cases e; first | done | exact h.ext | fail)
      | (dsimp only at e)
      | fail)
  · rw [generateAppendCall_more_eq] at e
    have ih0 := ih _ (List.mem_cons_self _ _)
    have iht : ∀ e ∈ b :: rest, ExprOK e := fun e he => ih e (List.mem_cons_of_mem _ he)
    try simp only [IRGenerator.NewAlloca, IRGenerator.NewLoad, IRGenerator.NewBin, IRGenerator.NewICmp, IRGenerator.NewFCmp, IRGenerator.NewGetElementPtr, IRGenerator.funcValue, NewCall_func, IRGenerator.NewCall, IRGenerator.NewZExt, IRGenerator.NewSelect, IRGenerator.NewBr, IRGenerator.NewCondBr, IRGenerator.NewRet, IRGenerator.NewUnreachable, IRGenerator.NewFunc, IRGenerator.NewGlobalDef] at e
    repeat' (first
      | (first | (revert e; with_reducible apply (h.asResult); done) | (revert e; with_reducible apply (h.failWith); done) | (revert e; with_reducible apply (h.NewInst); done) | (revert e; with_reducible apply (h.NewStore); done) | (revert e; with_reducible apply (h.NewTerm); done) | (revert e; with_reducible apply (h.NewBlock); done) | (revert e; with_reducible apply (ih0.grows h); done) | (revert e; with_reducible apply (h.appendPrologue); done) | (revert e; with_reducible apply (Grows.appendElements iht h); done) | (revert e; with_reducible apply (h.appendEpilogue); done) | fail)
      | (apply stepWith e; (focus (with_reducible apply (@ite_ok _ _ _ _ _ _); done)); intro e2
         clear e
         rcases e2 with ⟨_, e⟩ | ⟨_, e⟩)
      | (simp only [bind_assoc, pure_bind] at e)
      | (rw [bind_ok] at e
         obtain ⟨⟨x1, g1⟩, e1, e⟩ := e
         try dsimp only at e
         first
           | (apply stepWith e1; (focus (with_reducible apply (h.NewInst); done)); clear h; intro h) | (apply stepWith e1; (focus (with_reducible apply (h.NewStore); done)); clear h; intro h) | (apply stepWith e1; (focus (with_reducible apply (h.NewTerm); done)); clear h; intro h) | (apply stepWith e1; (focus (with_reducible apply (h.NewBlock); done)); clear h; intro h) | (apply stepWith e1; (focus (with_reducible apply (ih0.grows h); done)); clear h; intro h) | (apply stepWith e1; (focus (with_reducible apply (h.appendPrologue); done)); clear h; intro h) | (apply stepWith e1; (focus (with_reducible apply (Grows.appendElements iht h); done)); clear h; intro h) | (apply stepWith e1; (focus (with_reducible apply (h.appendEpilogue); done)); clear h; intro h)
           | (cases e1)
           | (refine Grows.cut (b := g1) ?_ ?_ <;>
               first | (intro h2; clear h e1; rename' h2 => h) | (clear e; rename' e1 => e))
           | fail)
      | (split at e <;>
         try (rename_i heq
              first | (apply stepWith heq; (focus (with_reducible apply (h.NewInst); done)); clear h; intro h) | (apply stepWith heq; (focus (with_reducible apply (h.NewStore); done)); clear h; intro h) | (apply stepWith heq; (focus (with_reducible apply (h.NewTerm); done)); clear h; intro h) | (apply stepWith heq; (focus (with_reducible apply (h.NewBlock); done)); clear h; intro h) | (apply stepWith heq; (focus (with_reducible apply (ih0.grows h); done)); clear h; intro h) | (apply stepWith heq; (focus (with_reducible apply (h.appendPrologue); done)); clear h; intro h) | (apply stepWith heq; (focus (with_reducible apply (Grows.appendElements iht h); done)); clear h; intro h) | (apply stepWith heq; (focus (with_reducible apply (h.appendEpilogue); done)); clear h; intro h) | fail))
      | (cases e; first | done | exact h.ext | fail)
      | (dsimp only at e)
      | fail)

theorem Grows.generateMakeCall {l : List Expression} (ih : ∀ e ∈ l, ExprOK e)
    {a g x g' : IRGenerator} [Ext g x] {r : Option Value} (h : Grows a g)
    (e : generateMakeCall l x = .ok (r, g')) : Grows a g' := by
  replace h : Grows a x := h.ext
  rcases l with _ | ⟨t, _ | ⟨b, _ | ⟨c, rest⟩⟩⟩
  · rw [generateMakeCall_nil_eq] at e
    try simp only [IRGenerator.NewAlloca, IRGenerator.NewLoad, IRGenerator.NewBin, IRGenerator.NewICmp, IRGenerator.NewFCmp, IRGenerator.NewGetElementPtr, IRGenerator.funcValue, NewCall_func, IRGenerator.NewCall, IRGenerator.NewZExt, IRGenerator.NewSelect, IRGenerator.NewBr, IRGenerator.NewCondBr, IRGenerator.NewRet, IRGenerator.NewUnreachable, IRGenerator.NewFunc, IRGenerator.NewGlobalDef] at e
    repeat' (first
      | (first | (revert e; with_reducible apply (h.asResult); done) | (revert e; with_reducible apply (h.failWith); done) | (revert e; with_reducible apply (h.NewInst); done) | (revert e; with_reducible apply (h.NewStore); done) | (revert e; with_reducible apply (h.NewTerm); done) | (revert e; with_reducible apply (h.NewBlock); done) | fail)
      | (apply stepWith e; (focus (with_reducible apply (@ite_ok _ _ _ _ _ _); done)); intro e2
         clear e
         rcases e2 with ⟨_, e⟩ | ⟨_, e⟩)
      | (simp only [bind_assoc, pure_bind] at e)
      | (rw [bind_ok] at e
         obtain ⟨⟨x1, g1⟩, e1, e⟩ := e
         try dsimp only at e
         first
           | (apply stepWith e1; (focus (with_reducible apply (h.NewInst); done)); clear h; intro h) | (apply stepWith e1; (focus (with_reducible apply (h.NewStore); done)); clear h; intro h) | (apply stepWith e1; (focus (with_reducible apply (h.NewTerm); done)); clear h; intro h) | (apply stepWith e1; (focus (with_reducible apply (h.NewBlock); done)); clear h; intro h)
           | (cases e1)
           | (refine Grows.cut (b := g1) ?_ ?_ <;>
               first | (intro h2; clear h e1; rename' h2 => h) | (clear e; rename' e1 => e))
           | fail)
      | (split at e <;>
         try (rename_i heq
              first | (apply stepWith heq; (focus (with_reducible apply (h.NewInst); done)); clear h; intro h) | (apply stepWith heq; (focus (with_reducible apply (h.NewStore); done)); clear h; intro h) | (apply stepWith heq; (focus (with_reducible apply (h.NewTerm); done)); clear h; intro h) | (apply stepWith heq; (focus (with_reducible apply (h.NewBlock); done)); clear h; intro h) | fail))
      | (cases e; first | done | exact h.ext | fail)
      | (dsimp only at e)
      | fail)
  · rw [generateMakeCall_cons_eq] at e
    try simp only [IRGenerator.NewAlloca, IRGenerator.NewLoad, IRGenerator.NewBin, IRGenerator.NewICmp, IRGenerator.NewFCmp, IRGenerator.NewGetElementPtr, IRGenerator.funcValue, NewCall_func, IRGenerator.NewCall, IRGenerator.NewZExt, IRGenerator.NewSelect, IRGenerator.NewBr, IRGenerator.NewCondBr, IRGenerator.NewRet, IRGenerator.NewUnreachable, IRGenerator.NewFunc, IRGenerator.NewGlobalDef] at e
    repeat' (first
      | (first | (revert e; with_reducible apply (h.asResult); done) | (revert e; with_reducible apply (h.failWith); done) | (revert e; with_reducible apply (h.NewInst); done) | (revert e; with_reducible apply (h.NewStore); done) | (revert e; with_reducible apply (h.NewTerm); done) | (revert e; with_reducible apply (h.NewBlock); done) | fail)
      | (apply stepWith e; (focus (with_reducible apply (@ite_ok _ _ _ _ _ _); done)); intro e2
         clear e
         rcases e2 with ⟨_, e⟩ | ⟨_, e⟩)
      | (simp only [bind_assoc, pure_bind] at e)
      | (rw [bind_ok] at e
         obtain ⟨⟨x1, g1⟩, e1, e⟩ := e
         try dsimp only at e
         first
           | (apply stepWith e1; (focus (with_reducible apply (h.NewInst); done)); clear h; intro h) | (apply stepWith e1; (focus (with_reducible apply (h.NewStore); done)); clear h; intro h) | (apply stepWith e1; (focus (with_reducible apply (h.NewTerm); done)); clear h; intro h) | (apply stepWith e1; (focus (with_reducible apply (h.NewBlock); done)); clear h; intro h)
           | (cases e1)
           | (refine Grows.cut (b := g1) ?_ ?_ <;>
               first | (intro h2; clear h e1; rename' h2 => h) | (clear e; rename' e1 => e))
           | fail)
      | (split at e <;>
         try (rename_i heq
              first | (apply stepWith heq; (focus (with_reducible apply (h.NewInst); done)); clear h; intro h) | (apply stepWith heq; (focus (with_reducible apply (h.NewStore); done)); clear h; intro h) | (apply stepWith heq; (focus (with_reducible apply (h.NewTerm); done)); clear h; intro h) | (apply stepWith heq; (focus (with_reducible apply (h.NewBlock); done)); clear h; intro h) | fail))
      | (cases e; first | done | exact h.ext | fail)
      | (dsimp only at e)
      | fail)
  · rw [generateMakeCall_cons_eq] at e
    have ih1 := ih _ (List.mem_cons_of_mem _ (List.mem_cons_self _ _))
    try simp only [IRGenerator.NewAlloca, IRGenerator.NewLoad, IRGenerator.NewBin, IRGenerator.NewICmp, IRGenerator.NewFCmp, IRGenerator.NewGetElementPtr, IRGenerator.funcValue, NewCall_func, IRGenerator.NewCall, IRGenerator.NewZExt, IRGenerator.NewSelect, IRGenerator.NewBr, IRGenerator.NewCondBr, IRGenerator.NewRet, IRGenerator.NewUnreachable, IRGenerator.NewFunc, IRGenerator.NewGlobalDef] at e
    repeat' (first
      | (first | (revert e; with_reducible apply (h.asResult); done) | (revert e; with_reducible apply (h.failWith); done) | (revert e; with_reducible apply (h.NewInst); done) | (revert e; with_reducible apply (h.NewStore); done) | (revert e; with_reducible apply (h.NewTerm); done) | (revert e; with_reducible apply (h.NewBlock); done) | (revert e; with_reducible apply (ih1.grows h); done) | (revert e; with_reducible apply (h.makeSlice); done) | fail)
      | (apply stepWith e; (focus (with_reducible apply (@ite_ok _ _ _ _ _ _); done)); intro e2
         clear e
         rcases e2 with ⟨_, e⟩ | ⟨_, e⟩)
      | (simp only [bind_assoc, pure_bind] at e)
      | (rw [bind_ok] at e
         obtain ⟨⟨x1, g1⟩, e1, e⟩ := e
         try dsimp only at e
         first
           | (apply stepWith e1; (focus (with_reducible apply (h.NewInst); done)); clear h; intro h) | (apply stepWith e1; (focus (with_reducible apply (h.NewStore); done)); clear h; intro h) | (apply stepWith e1; (focus (with_reducible apply (h.NewTerm); done)); clear h; intro h) | (apply stepWith e1; (focus (with_reducible apply (h.NewBlock); done)); clear h; intro h) | (apply stepWith e1; (focus (with_reducible apply (ih1.grows h); done)); clear h; intro h) | (apply stepWith e1; (focus (with_reducible apply (h.makeSlice); done)); clear h; intro h)
           | (cases e1)
           | (refine Grows.cut (b := g1) ?_ ?_ <;>
               first | (intro h2; clear h e1; rename' h2 => h) | (clear e; rename' e1 => e))
           | fail)
      | (split at e <;>
         try (rename_i heq
              first | (apply stepWith heq; (focus (with_reducible apply (h.NewInst); done)); clear h; intro h) | (apply stepWith heq; (focus (with_reducible apply (h.NewStore); done)); clear h; intro h) | (apply stepWith heq; (focus (with_reducible apply (h.NewTerm); done)); clear h; intro h) | (apply stepWith heq; (focus (with_reducible apply (h.NewBlock); done)); clear h; intro h) | (apply stepWith heq; (focus (with_reducible apply (ih1.grows h); done)); clear h; intro h) | (apply stepWith heq; (focus (with_reducible apply (h.makeSlice); done)); clear h; intro h) | fail))
      | (cases e; first | done | exact h.ext | fail)
      | (dsimp only at e)
      | fail)
  · rw [generateMakeCall_cons_eq] at e
    have ih1 := ih _ (List.mem_cons_of_mem _ (List.mem_cons_self _ _))
    have ih2 := ih _ (List.mem_cons_of_mem _ (List.mem_cons_of_mem _ (List.mem_cons_self _ _)))
    try simp only [IRGenerator.NewAlloca, IRGenerator.NewLoad, IRGenerator.NewBin, IRGenerator.NewICmp, IRGenerator.NewFCmp, IRGenerator.NewGetElementPtr, IRGenerator.funcValue, NewCall_func, IRGenerator.NewCall, IRGenerator.NewZExt, IRGenerator.NewSelect, IRGenerator.NewBr, IRGenerator.NewCondBr, IRGenerator.NewRet, IRGenerator.NewUnreachable, IRGenerator.NewFunc, IRGenerator.NewGlobalDef] at e
    repeat' (first
      | (first | (revert e; with_reducible apply (h.asResult); done) | (revert e; with_reducible apply (h.failWith); done) | (revert e; with_reducible apply (h.NewInst); done) | (revert e; with_reducible apply (h.NewStore); done) | (revert e; with_reducible apply (h.NewTerm); done) | (revert e; with_reducible apply (h.NewBlock); done) | (revert e; with_reducible apply (ih1.grows h); done) | (revert e; with_reducible apply (ih2.grows h); done) | (revert e; with_reducible apply (h.makeSlice); done) | fail)
      | (apply stepWith e; (focus (with_reducible apply (@ite_ok _ _ _ _ _ _); done)); intro e2
         clear e
         rcases e2 with ⟨_, e⟩ | ⟨_, e⟩)
      | (simp only [bind_assoc, pure_bind] at e)
      | (rw [bind_ok] at e
         obtain ⟨⟨x1, g1⟩, e1, e⟩ := e
         try dsimp only at e
         first
           | (apply stepWith e1; (focus (with_reducible apply (h.NewInst); done)); clear h; intro h) | (apply stepWith e1; (focus (with_reducible apply (h.NewStore); done)); clear h; intro h) | (apply stepWith e1; (focus (with_reducible apply (h.NewTerm); done)); clear h; intro h) | (apply stepWith e1; (focus (with_reducible apply (h.NewBlock); done)); clear h; intro h) | (apply stepWith e1; (focus (with_reducible apply (ih1.grows h); done)); clear h; intro h) | (apply stepWith e1; (focus (with_reducible apply (ih2.grows h); done)); clear h; intro h) | (apply stepWith e1; (focus (with_reducible apply (h.makeSlice); done)); clear h; intro h)
           | (cases e1)
           | (refine Grows.cut (b := g1) ?_ ?_ <;>
               first | (intro h2; clear h e1; rename' h2 => h) | (clear e; rename' e1 => e))
           | fail)
      | (split at e <;>
         try (rename_i heq
              first | (apply stepWith heq; (focus (with_reducible apply (h.NewInst); done)); clear h; intro h) | (apply stepWith heq; (focus (with_reducible apply (h.NewStore); done)); clear h; intro h) | (apply stepWith heq; (focus (with_reducible apply (h.NewTerm); done)); clear h; intro h) | (apply stepWith heq; (focus (with_reducible apply (h.NewBlock); done)); clear h; intro h) | (apply stepWith heq; (focus (with_reducible apply (ih1.grows h); done)); clear h; intro h) | (apply stepWith heq; (focus (with_reducible apply (ih2.grows h); done)); clear h; intro h) | (apply stepWith heq; (focus (with_reducible apply (h.makeSlice); done)); clear h; intro h) | fail))
      | (cases e; first | done | exact h.ext | fail)
      | (dsimp only at e)
      | fail)

theorem Grows.generateExitCall {l : List Expression} (ih : ∀ e ∈ l, ExprOK e)
    {a g x g' : IRGenerator} [Ext g x] {r : Option Value} (h : Grows a g)
    (e : generateExitCall l x = .ok (r, g')) : Grows a g' := by
  replace h : Grows a x := h.ext
  rcases l with _ | ⟨a, rest⟩
  · rw [generateExitCall_nil_eq] at e
    try simp only [IRGenerator.NewAlloca, IRGenerator.NewLoad, IRGenerator.NewBin, IRGenerator.NewICmp, IRGenerator.NewFCmp, IRGenerator.NewGetElementPtr, IRGenerator.funcValue, NewCall_func, IRGenerator.NewCall, IRGenerator.NewZExt, IRGenerator.NewSelect, IRGenerator.NewBr, IRGenerator.NewCondBr, IRGenerator.NewRet, IRGenerator.NewUnreachable, IRGenerator.NewFunc, IRGenerator.NewGlobalDef] at e
    repeat' (first
      | (first | (revert e; with_reducible apply (h.asResult); done) | (revert e; with_reducible apply (h.failWith); done) | (revert e; with_reducible apply (h.NewInst); done) | (revert e; with_reducible apply (h.NewStore); done) | (revert e; with_reducible apply (h.NewTerm); done) | (revert e; with_reducible apply (h.NewBlock); done) | fail)
      | (apply stepWith e; (focus (with_reducible apply (@ite_ok _ _ _ _ _ _); done)); intro e2
         clear e
         rcases e2 with ⟨_, e⟩ | ⟨_, e⟩)
      | (simp only [bind_assoc, pure_bind] at e)
      | (rw [bind_ok] at e
         obtain ⟨⟨x1, g1⟩, e1, e⟩ := e
         try dsimp only at e
         first
           | (apply stepWith e1; (focus (with_reducible apply (h.NewInst); done)); clear h; intro h) | (apply stepWith e1; (focus (with_reducible apply (h.NewStore); done)); clear h; intro h) | (apply stepWith e1; (focus (with_reducible apply (h.NewTerm); done)); clear h; intro h) | (apply stepWith e1; (focus (with_reducible apply (h.NewBlock); done)); clear h; intro h)
           | (cases e1)
           | (refine Grows.cut (b := g1) ?_ ?_ <;>
               first | (intro h2; clear h e1; rename' h2 => h) | (clear e; rename' e1 => e))
           | fail)
      | (split at e <;>
         try (rename_i heq
              first | (apply stepWith heq; (focus (with_reducible apply (h.NewInst); done)); clear h; intro h) | (apply stepWith heq; (focus (with_reducible apply (h.NewStore); done)); clear h; intro h) | (apply stepWith heq; (focus (with_reducible apply (h.NewTerm); done)); clear h; intro h) | (apply stepWith heq; (focus (with_reducible apply (h.NewBlock); done)); clear h; intro h) | fail))
      | (cases e; first | done | exact h.ext | fail)
      | (dsimp only at e)
      | fail)
  · rw [generateExitCall_cons_eq] at e
    have ih0 := ih _ (List.mem_cons_self _ _)
    try simp only [IRGenerator.NewAlloca, IRGenerator.NewLoad, IRGenerator.NewBin, IRGenerator.NewICmp, IRGenerator.NewFCmp, IRGenerator.NewGetElementPtr, IRGenerator.funcValue, NewCall_func, IRGenerator.NewCall, IRGenerator.NewZExt, IRGenerator.NewSelect, IRGenerator.NewBr, IRGenerator.NewCondBr, IRGenerator.NewRet, IRGenerator.NewUnreachable, IRGenerator.NewFunc, IRGenerator.NewGlobalDef] at e
    repeat' (first
      | (first | (revert e; with_reducible apply (h.asResult); done) | (revert e; with_reducible apply (h.failWith); done) | (revert e; with_reducible apply (h.NewInst); done) | (revert e; with_reducible apply (h.NewStore); done) | (revert e; with_reducible apply (h.NewTerm); done) | (revert e; with_reducible apply (h.NewBlock); done) | (revert e; with_reducible apply (ih0.grows h); done) | fail)
      | (apply stepWith e; (focus (with_reducible apply (@ite_ok _ _ _ _ _ _); done)); intro e2
         clear e
         rcases e2 with ⟨_, e⟩ | ⟨_, e⟩)
      | (simp only [bind_assoc, pure_bind] at e)
      | (rw [bind_ok] at e
         obtain ⟨⟨x1, g1⟩, e1, e⟩ := e
         try dsimp only at e
         first
           | (apply stepWith e1; (focus (with_reducible apply (h.NewInst); done)); clear h; intro h) | (apply stepWith e1; (focus (with_reducible apply (h.NewStore); done)); clear h; intro h) | (apply stepWith e1; (focus (with_reducible apply (h.NewTerm); done)); clear h; intro h) | (apply stepWith e1; (focus (with_reducible apply (h.NewBlock); done)); clear h; intro h) | (apply stepWith e1; (focus (with_reducible apply (ih0.grows h); done)); clear h; intro h)
           | (cases e1)
           | (refine Grows.cut (b := g1) ?_ ?_ <;>
               first | (intro h2; clear h e1; rename' h2 => h) | (clear e; rename' e1 => e))
           | fail)
      | (split at e <;>
         try (rename_i heq
              first | (apply stepWith heq; (focus (with_reducible apply (h.NewInst); done)); clear h; intro h) | (apply stepWith heq; (focus (with_reducible apply (h.NewStore); done)); clear h; intro h) | (apply stepWith heq; (focus (with_reducible apply (h.NewTerm); done)); clear h; intro h) | (apply stepWith heq; (focus (with_reducible apply (h.NewBlock); done)); clear h; intro h) | (apply stepWith heq; (focus (with_reducible apply (ih0.grows h); done)); clear h; intro h) | fail))
      | (cases e; first | done | exact h.ext | fail)
      | (dsimp only at e)
      | fail)

theorem bindParameters_grows (l : List String) :
    ∀ (i fn entryBlock : Nat) (a x g' : IRGenerator) (r : Unit), Grows a x →
      bindParameters l i fn entryBlock x = .ok (r, g') → Grows a g' := by
  induction l with
  | nil =>
    intro i fn entryBlock a x g' r h e
    cases e
    exact h
  | cons name rest ihl =>
    intro i fn entryBlock a x g' r h e
    rw [bindParameters] at e
    try simp only [IRGenerator.NewAlloca, IRGenerator.NewLoad, IRGenerator.NewBin, IRGenerator.NewICmp, IRGenerator.NewFCmp, IRGenerator.NewGetElementPtr, IRGenerator.funcValue, NewCall_func, IRGenerator.NewCall, IRGenerator.NewZExt, IRGenerator.NewSelect, IRGenerator.NewBr, IRGenerator.NewCondBr, IRGenerator.NewRet, IRGenerator.NewUnreachable, IRGenerator.NewFunc, IRGenerator.NewGlobalDef] at e
    repeat' (first
      | (first | (revert e; with_reducible apply (h.asResult); done) | (revert e; with_reducible apply (h.failWith); done) | (revert e; with_reducible apply (h.NewInst); done) | (revert e; with_reducible apply (h.NewStore); done) | (revert e; with_reducible apply (h.NewTerm); done) | (revert e; with_reducible apply (h.NewBlock); done) | (revert e; with_reducible apply (ihl _ _ _ _ _ _ _ h.ext); done) | fail)
      | (apply stepWith e; (focus (with_reducible apply (@ite_ok _ _ _ _ _ _); done)); intro e2
         clear e
         rcases e2 with ⟨_, e⟩ | ⟨_, e⟩)
      | (simp only [bind_assoc, pure_bind] at e)
      | (rw [bind_ok] at e
         obtain ⟨⟨x1, g1⟩, e1, e⟩ := e
         try dsimp only at e
         first
           | (apply stepWith e1; (focus (with_reducible apply (h.NewInst); done)); clear h; intro h) | (apply stepWith e1; (focus (with_reducible apply (h.NewStore); done)); clear h; intro h) | (apply stepWith e1; (focus (with_reducible apply (h.NewTerm); done)); clear h; intro h) | (apply stepWith e1; (focus (with_reducible apply (h.NewBlock); done)); clear h; intro h) | (apply stepWith e1; (focus (with_reducible apply (ihl _ _ _ _ _ _ _ h.ext); done)); clear h; intro h)
           | (cases e1)
           | (refine Grows.cut (b := g1) ?_ ?_ <;>
               first | (intro h2; clear h e1; rename' h2 => h) | (clear e; rename' e1 => e))
           | fail)
      | (split at e <;>
         try (rename_i heq
              first | (apply stepWith heq; (focus (with_reducible apply (h.NewInst); done)); clear h; intro h) | (apply stepWith heq; (focus (with_reducible apply (h.NewStore); done)); clear h; intro h) | (apply stepWith heq; (focus (with_reducible apply (h.NewTerm); done)); clear h; intro h) | (apply stepWith heq; (focus (with_reducible apply (h.NewBlock); done)); clear h; intro h) | (apply stepWith heq; (focus (with_reducible apply (ihl _ _ _ _ _ _ _ h.ext); done)); clear h; intro h) | fail))
      | (cases e; first | done | exact h.ext | fail)
      | (dsimp only at e)
      | fail)

theorem Grows.bindParameters {a g x g' : IRGenerator} [Ext g x] {l : List String} {i fn entryBlock : Nat}
    {r : Unit} (h : Grows a g) (e : bindParameters l i fn entryBlock x = .ok (r, g')) : Grows a g' :=
  bindParameters_grows l _ _ _ a x g' r h.ext e

theorem bindLiteralParameters_grows (l : List String) :
    ∀ (i fn entryBlock : Nat) (a x g' : IRGenerator) (r : Unit), Grows a x →
      bindLiteralParameters l i fn entryBlock x = .ok (r, g') → Grows a g' := by
  induction l with
  | nil =>
    intro i fn entryBlock a x g' r h e
    cases e
    exact h
  | cons name rest ihl =>
    intro i fn entryBlock a x g' r h e
    rw [bindLiteralParameters] at e
    try simp only [IRGenerator.NewAlloca, IRGenerator.NewLoad, IRGenerator.NewBin, IRGenerator.NewICmp, IRGenerator.NewFCmp, IRGenerator.NewGetElementPtr, IRGenerator.funcValue, NewCall_func, IRGenerator.NewCall, IRGenerator.NewZExt, IRGenerator.NewSelect, IRGenerator.NewBr, IRGenerator.NewCondBr, IRGenerator.NewRet, IRGenerator.NewUnreachable, IRGenerator.NewFunc, IRGenerator.NewGlobalDef] at e
    repeat' (first
      | (first | (revert e; with_reducible apply (h.asResult); done) | (revert e; with_reducible apply (h.failWith); done) | (revert e; with_reducible apply (h.NewInst); done) | (revert e; with_reducible apply (h.NewStore); done) | (revert e; with_reducible apply (h.NewTerm); done) | (revert e; with_reducible apply (h.NewBlock); done) | (revert e; with_reducible apply (ihl _ _ _ _ _ _ _ h.ext); done) | fail)
      | (apply stepWith e; (focus (with_reducible apply (@ite_ok _ _ _ _ _ _); done)); intro e2
         clear e
         rcases e2 with ⟨_, e⟩ | ⟨_, e⟩)
      | (simp only [bind_assoc, pure_bind] at e)
      | (rw [bind_ok] at e
         obtain ⟨⟨x1, g1⟩, e1, e⟩ := e
         try dsimp only at e
         first
           | (apply stepWith e1; (focus (with_reducible apply (h.NewInst); done)); clear h; intro h) | (apply stepWith e1; (focus (with_reducible apply (h.NewStore); done)); clear h; intro h) | (apply stepWith e1; (focus (with_reducible apply (h.NewTerm); done)); clear h; intro h) | (apply stepWith e1; (focus (with_reducible apply (h.NewBlock); done)); clear h; intro h) | (apply stepWith e1; (focus (with_reducible apply (ihl _ _ _ _ _ _ _ h.ext); done)); clear h; intro h)
           | (cases e1)
           | (refine Grows.cut (b := g1) ?_ ?_ <;>
               first | (intro h2; clear h e1; rename' h2 => h) | (clear e; rename' e1 => e))
           | fail)
      | (split at e <;>
         try (rename_i heq
              first | (apply stepWith heq; (focus (with_reducible apply (h.NewInst); done)); clear h; intro h) | (apply stepWith heq; (focus (with_reducible apply (h.NewStore); done)); clear h; intro h) | (apply stepWith heq; (focus (with_reducible apply (h.NewTerm); done)); clear h; intro h) | (apply stepWith heq; (focus (with_reducible apply (h.NewBlock); done)); clear h; intro h) | (apply stepWith heq; (focus (with_reducible apply (ihl _ _ _ _ _ _ _ h.ext); done)); clear h; intro h) | fail))
      | (cases e; first | done | exact h.ext | fail)
      | (dsimp only at e)
      | fail)

theorem Grows.bindLiteralParameters {a g x g' : IRGenerator} [Ext g x] {l : List String} {i fn entryBlock : Nat}
    {r : Unit} (h : Grows a g) (e : bindLiteralParameters l i fn entryBlock x = .ok (r, g')) : Grows a g' :=
  bindLiteralParameters_grows l _ _ _ a x g' r h.ext e

theorem newCaseBlocks_grows (l : List CaseClause) :
    ∀ (i : Nat) (labelSuffix : String) (defaultBlock : Option Nat) (a x g' : IRGenerator)
      (r : List Nat × Option Nat), Grows a x →
      newCaseBlocks l i labelSuffix defaultBlock x = .ok (r, g') → Grows a g' := by
  induction l with
  | nil =>
    intro i labelSuffix defaultBlock a x g' r h e
    cases e
    exact h
  | cons c rest ihl =>
    intro i labelSuffix defaultBlock a x g' r h e
    rw [newCaseBlocks] at e
    repeat' (first
      | (first | (revert e; with_reducible apply (h.asResult); done) | (revert e; with_reducible apply (h.failWith); done) | (revert e; with_reducible apply (h.NewInst); done) | (revert e; with_reducible apply (h.NewStore); done) | (revert e; with_reducible apply (h.NewTerm); done) | (revert e; with_reducible apply (h.NewBlock); done) | (revert e; with_reducible apply (ihl _ _ _ _ _ _ _ h.ext); done) | fail)
      | (apply stepWith e; (focus (with_reducible apply (@ite_ok _ _ _ _ _ _); done)); intro e2
         clear e
         rcases e2 with ⟨_, e⟩ | ⟨_, e⟩)
      | (simp only [bind_assoc, pure_bind] at e)
      | (rw [bind_ok] at e
         obtain ⟨⟨x1, g1⟩, e1, e⟩ := e
         try dsimp only at e
         first
           | (apply stepWith e1; (focus (with_reducible apply (h.NewInst); done)); clear h; intro h) | (apply stepWith e1; (focus (with_reducible apply (h.NewStore); done)); clear h; intro h) | (apply stepWith e1; (focus (with_reducible apply (h.NewTerm); done)); clear h; intro h) | (apply stepWith e1; (focus (with_reducible apply (h.NewBlock); done)); clear h; intro h) | (apply stepWith e1; (focus (with_reducible apply (ihl _ _ _ _ _ _ _ h.ext); done)); clear h; intro h)
           | (cases e1)
           | (refine Grows.cut (b := g1) ?_ ?_ <;>
               first | (intro h2; clear h e1; rename' h2 => h) | (clear e; rename' e1 => e))
           | fail)
      | (split at e <;>
         try (rename_i heq
              first | (apply stepWith heq; (focus (with_reducible apply (h.NewInst); done)); clear h; intro h) | (apply stepWith heq; (focus (with_reducible apply (h.NewStore); done)); clear h; intro h) | (apply stepWith heq; (focus (with_reducible apply (h.NewTerm); done)); clear h; intro h) | (apply stepWith heq; (focus (with_reducible apply (h.NewBlock); done)); clear h; intro h) | (apply stepWith heq; (focus (with_reducible apply (ihl _ _ _ _ _ _ _ h.ext); done)); clear h; intro h) | fail))
      | (cases e; first | done | exact h.ext | fail)
      | (dsimp only at e)
      | fail)

theorem Grows.newCaseBlocks {a g x g' : IRGenerator} [Ext g x] {l : List CaseClause} {i : Nat}
    {labelSuffix : String} {defaultBlock : Option Nat} {r : List Nat × Option Nat}
    (h : Grows a g) (e : newCaseBlocks l i labelSuffix defaultBlock x = .ok (r, g')) :
    Grows a g' :=
  newCaseBlocks_grows l _ _ _ a x g' r h.ext e

theorem getExpressionType_grows : ∀ (n : Nat) (ex : Expression), sizeOf ex ≤ n →
    ∀ (a x g' : IRGenerator) (r : Option Ty), Grows a x →
      getExpressionType ex x = (r, g') → Grows a g' := by
  intro n
  induction n with
  | zero =>
    intro ex hn
    cases ex <;> simp at hn
  | succ n ih =>
    intro ex hn a x g' r h e
    cases ex with
    | PrefixExpression op right =>
      simp only [getExpressionType] at e
      simp at hn
      exact ih right (by omega) a x g' r h e
    | InfixExpression left op right =>
      simp only [getExpressionType] at e
      simp at hn
      have s1 : sizeOf left ≤ n := by omega
      have s2 : sizeOf right ≤ n := by omega
      have i1 : ∀ (g y : IRGenerator) [Ext g y], Ext g (getExpressionType left y).2 :=
        fun g y i => ⟨ih left s1 _ _ _ _ i.grows rfl⟩
      have i2 : ∀ (g y : IRGenerator) [Ext g y], Ext g (getExpressionType right y).2 :=
        fun g y i => ⟨ih right s2 _ _ _ _ i.grows rfl⟩
      repeat' (first
        | (first | (revert e; with_reducible apply (h.asResult); done) | (revert e; with_reducible apply (h.failWith); done) | (revert e; with_reducible apply (h.NewInst); done) | (revert e; with_reducible apply (h.NewStore); done) | (revert e; with_reducible apply (h.NewTerm); done) | (revert e; with_reducible apply (h.NewBlock); done) | fail)
        | (apply stepWith e; (focus (with_reducible apply (@ite_ok _ _ _ _ _ _); done)); intro e2
           clear e
           rcases e2 with ⟨_, e⟩ | ⟨_, e⟩)
        | (simp only [bind_assoc, pure_bind] at e)
        | (rw [bind_ok] at e
           obtain ⟨⟨x1, g1⟩, e1, e⟩ := e
           try dsimp only at e
           first
             | (apply stepWith e1; (focus (with_reducible apply (h.NewInst); done)); clear h; intro h) | (apply stepWith e1; (focus (with_reducible apply (h.NewStore); done)); clear h; intro h) | (apply stepWith e1; (focus (with_reducible apply (h.NewTerm); done)); clear h; intro h) | (apply stepWith e1; (focus (with_reducible apply (h.NewBlock); done)); clear h; intro h)
             | (cases e1)
             | (refine Grows.cut (b := g1) ?_ ?_ <;>
                 first | (intro h2; clear h e1; rename' h2 => h) | (clear e; rename' e1 => e))
             | fail)
        | (split at e <;>
           try (rename_i heq
                first | (apply stepWith heq; (focus (with_reducible apply (h.NewInst); done)); clear h; intro h) | (apply stepWith heq; (focus (with_reducible apply (h.NewStore); done)); clear h; intro h) | (apply stepWith heq; (focus (with_reducible apply (h.NewTerm); done)); clear h; intro h) | (apply stepWith heq; (focus (with_reducible apply (h.NewBlock); done)); clear h; intro h) | fail))
        | (cases e; first | done | exact h.ext | fail)
        | (dsimp only at e)
        | fail)
    | ArrayLiteral elements =>
      rcases elements with _ | ⟨first, rest⟩
      · simp only [getExpressionType] at e
        cases e
        exact h
      · simp only [getExpressionType] at e
        simp at hn
        have s1 : sizeOf first ≤ n := by omega
        have i1 : ∀ (g y : IRGenerator) [Ext g y], Ext g (getExpressionType first y).2 :=
        fun g y i => ⟨ih first s1 _ _ _ _ i.grows rfl⟩
        repeat' (first
          | (first | (revert e; with_reducible apply (h.asResult); done) | (revert e; with_reducible apply (h.failWith); done) | (revert e; with_reducible apply (h.NewInst); done) | (revert e; with_reducible apply (h.NewStore); done) | (revert e; with_reducible apply (h.NewTerm); done) | (revert e; with_reducible apply (h.NewBlock); done) | fail)
          | (apply stepWith e; (focus (with_reducible apply (@ite_ok _ _ _ _ _ _); done)); intro e2
             clear e
             rcases e2 with ⟨_, e⟩ | ⟨_, e⟩)
          | (simp only [bind_assoc, pure_bind] at e)
          | (rw [bind_ok] at e
             obtain ⟨⟨x1, g1⟩, e1, e⟩ := e
             try dsimp only at e
             first
               | (apply stepWith e1; (focus (with_reducible apply (h.NewInst); done)); clear h; intro h) | (apply stepWith e1; (focus (with_reducible apply (h.NewStore); done)); clear h; intro h) | (apply stepWith e1; (focus (with_reducible apply (h.NewTerm); done)); clear h; intro h) | (apply stepWith e1; (focus (with_reducible apply (h.NewBlock); done)); clear h; intro h)
               | (cases e1)
               | (refine Grows.cut (b := g1) ?_ ?_ <;>
                   first | (intro h2; clear h e1; rename' h2 => h) | (clear e; rename' e1 => e))
               | fail)
          | (split at e <;>
             try (rename_i heq
                  first | (apply stepWith heq; (focus (with_reducible apply (h.NewInst); done)); clear h; intro h) | (apply stepWith heq; (focus (with_reducible apply (h.NewStore); done)); clear h; intro h) | (apply stepWith heq; (focus (with_reducible apply (h.NewTerm); done)); clear h; intro h) | (apply stepWith heq; (focus (with_reducible apply (h.NewBlock); done)); clear h; intro h) | fail))
          | (cases e; first | done | exact h.ext | fail)
          | (dsimp only at e)
          | fail)
    | IndexExpression left index =>
      simp only [getExpressionType] at e
      simp at hn
      have s1 : sizeOf left ≤ n := by omega
      have i1 : ∀ (g y : IRGenerator) [Ext g y], Ext g (getExpressionType left y).2 :=
        fun g y i => ⟨ih left s1 _ _ _ _ i.grows rfl⟩
      repeat' (first
        | (first | (revert e; with_reducible apply (h.asResult); done) | (revert e; with_reducible apply (h.failWith); done) | (revert e; with_reducible apply (h.NewInst); done) | (revert e; with_reducible apply (h.NewStore); done) | (revert e; with_reducible apply (h.NewTerm); done) | (revert e; with_reducible apply (h.NewBlock); done) | fail)
        | (apply stepWith e; (focus (with_reducible apply (@ite_ok _ _ _ _ _ _); done)); intro e2
           clear e
           rcases e2 with ⟨_, e⟩ | ⟨_, e⟩)
        | (simp only [bind_assoc, pure_bind] at e)
        | (rw [bind_ok] at e
           obtain ⟨⟨x1, g1⟩, e1, e⟩ := e
           try dsimp only at e
           first
             | (apply stepWith e1; (focus (with_reducible apply (h.NewInst); done)); clear h; intro h) | (apply stepWith e1; (focus (with_reducible apply (h.NewStore); done)); clear h; intro h) | (apply stepWith e1; (focus (with_reducible apply (h.NewTerm); done)); clear h; intro h) | (apply stepWith e1; (focus (with_reducible apply (h.NewBlock); done)); clear h; intro h)
             | (cases e1)
             | (refine Grows.cut (b := g1) ?_ ?_ <;>
                 first | (intro h2; clear h e1; rename' h2 => h) | (clear e; rename' e1 => e))
             | fail)
        | (split at e <;>
           try (rename_i heq
                first | (apply stepWith heq; (focus (with_reducible apply (ih _ s1 _ _ _ _ h.ext); done)); clear h; intro h) | (apply stepWith heq; (focus (with_reducible apply (h.NewInst); done)); clear h; intro h) | (apply stepWith heq; (focus (with_reducible apply (h.NewStore); done)); clear h; intro h) | (apply stepWith heq; (focus (with_reducible apply (h.NewTerm); done)); clear h; intro h) | (apply stepWith heq; (focus (with_reducible apply (h.NewBlock); done)); clear h; intro h) | fail))
        | (cases e; first | done | exact h.ext | fail)
        | (dsimp only at e)
        | fail)
    | _ =>
      simp only [getExpressionType] at e
      repeat' (first
        | (first | (revert e; with_reducible apply (h.asResult); done) | (revert e; with_reducible apply (h.failWith); done) | (revert e; with_reducible apply (h.NewInst); done) | (revert e; with_reducible apply (h.NewStore); done) | (revert e; with_reducible apply (h.NewTerm); done) | (revert e; with_reducible apply (h.NewBlock); done) | fail)
        | (apply stepWith e; (focus (with_reducible apply (@ite_ok _ _ _ _ _ _); done)); intro e2
           clear e
           rcases e2 with ⟨_, e⟩ | ⟨_, e⟩)
        | (simp only [bind_assoc, pure_bind] at e)
        | (rw [bind_ok] at e
           obtain ⟨⟨x1, g1⟩, e1, e⟩ := e
           try dsimp only at e
           first
             | (apply stepWith e1; (focus (with_reducible apply (h.NewInst); done)); clear h; intro h) | (apply stepWith e1; (focus (with_reducible apply (h.NewStore); done)); clear h; intro h) | (apply stepWith e1; (focus (with_reducible apply (h.NewTerm); done)); clear h; intro h) | (apply stepWith e1; (focus (with_reducible apply (h.NewBlock); done)); clear h; intro h)
             | (cases e1)
             | (refine Grows.cut (b := g1) ?_ ?_ <;>
                 first | (intro h2; clear h e1; rename' h2 => h) | (clear e; rename' e1 => e))
             | fail)
        | (split at e <;>
           try (rename_i heq
                first | (apply stepWith heq; (focus (with_reducible apply (h.NewInst); done)); clear h; intro h) | (apply stepWith heq; (focus (with_reducible apply (h.NewStore); done)); clear h; intro h) | (apply stepWith heq; (focus (with_reducible apply (h.NewTerm); done)); clear h; intro h) | (apply stepWith heq; (focus (with_reducible apply (h.NewBlock); done)); clear h; intro h) | fail))
        | (cases e; first | done | exact h.ext | fail)
        | (dsimp only at e)
        | fail)

theorem Grows.getExpressionType {a g x g' : IRGenerator} [Ext g x] {ex : Expression}
    {r : Option Ty} (h : Grows a g) (e : getExpressionType ex x = (r, g')) : Grows a g' :=
  getExpressionType_grows _ ex (Nat.le_refl _) a x g' r h.ext e

instance Ext.getExpressionType (g x : IRGenerator) (ex : Expression) [i : Ext g x] :
    Ext g (getExpressionType ex x).2 :=
  ⟨i.grows.getExpressionType rfl⟩

theorem Grows.varStatementType {a g x g' : IRGenerator} [Ext g x] {varName : String} {type value : Option Expression} {r : Option Ty}
    (h : Grows a g) (e : varStatementType varName type value x = (r, g')) : Grows a g' := by
  replace h : Grows a x := h.ext
  unfold Irgen.varStatementType at e
  try simp only [IRGenerator.NewAlloca, IRGenerator.NewLoad, IRGenerator.NewBin, IRGenerator.NewICmp, IRGenerator.NewFCmp, IRGenerator.NewGetElementPtr, IRGenerator.funcValue, NewCall_func, IRGenerator.NewCall, IRGenerator.NewZExt, IRGenerator.NewSelect, IRGenerator.NewBr, IRGenerator.NewCondBr, IRGenerator.NewRet, IRGenerator.NewUnreachable, IRGenerator.NewFunc, IRGenerator.NewGlobalDef] at e
  repeat' (first
    | (first | (revert e; with_reducible apply (h.asResult); done) | (revert e; with_reducible apply (h.failWith); done) | (revert e; with_reducible apply (h.NewInst); done) | (revert e; with_reducible apply (h.NewStore); done) | (revert e; with_reducible apply (h.NewTerm); done) | (revert e; with_reducible apply (h.NewBlock); done) | fail)
    | (apply stepWith e; (focus (with_reducible apply (@ite_ok _ _ _ _ _ _); done)); intro e2
       clear e
       rcases e2 with ⟨_, e⟩ | ⟨_, e⟩)
    | (simp only [bind_assoc, pure_bind] at e)
    | (rw [bind_ok] at e
       obtain ⟨⟨x1, g1⟩, e1, e⟩ := e
       try dsimp only at e
       first
         | (apply stepWith e1; (focus (with_reducible apply (h.NewInst); done)); clear h; intro h) | (apply stepWith e1; (focus (with_reducible apply (h.NewStore); done)); clear h; intro h) | (apply stepWith e1; (focus (with_reducible apply (h.NewTerm); done)); clear h; intro h) | (apply stepWith e1; (focus (with_reducible apply (h.NewBlock); done)); clear h; intro h)
         | (cases e1)
         | (refine Grows.cut (b := g1) ?_ ?_ <;>
             first | (intro h2; clear h e1; rename' h2 => h) | (clear e; rename' e1 => e))
         | fail)
    | (split at e <;>
       try (rename_i heq
            first | (apply stepWith heq; (focus (with_reducible apply (h.getExpressionType); done)); clear h; intro h) | (apply stepWith heq; (focus (with_reducible apply (h.NewInst); done)); clear h; intro h) | (apply stepWith heq; (focus (with_reducible apply (h.NewStore); done)); clear h; intro h) | (apply stepWith heq; (focus (with_reducible apply (h.NewTerm); done)); clear h; intro h) | (apply stepWith heq; (focus (with_reducible apply (h.NewBlock); done)); clear h; intro h) | fail))
    | (cases e; first | done | exact h.ext | fail)
    | (dsimp only at e)
    | fail)

instance Ext.varStatementType (g x : IRGenerator) (varName : String) (type value : Option Expression) [i : Ext g x] :
    Ext g (varStatementType varName type value x).2 :=
  ⟨i.grows.varStatementType rfl⟩

theorem taggedSwitchCases_grows (l : List CaseClause) (ih : ∀ c ∈ l, ∀ e ∈ c.values, ExprOK e) :
    ∀ (i : Nat) (switchValue : Value) (caseBlocks : List Nat) (currentBlock : Option Nat) (a x g' : IRGenerator) (r : Option Nat), Grows a x →
      taggedSwitchCases l i switchValue caseBlocks currentBlock x = .ok (r, g') → Grows a g' := by
  induction l with
  | nil =>
    intro i switchValue caseBlocks currentBlock a x g' r h e
    rw [taggedSwitchCases_nil_eq] at e
    cases e
    exact h
  | cons c rest ihl =>
    intro i switchValue caseBlocks currentBlock a x g' r h e
    have ihr := ihl (fun e he => ih e (List.mem_cons_of_mem _ he))
    rcases c with ⟨d, vs, b⟩
    have ih1 : ∀ e ∈ vs, ExprOK e := ih _ (List.mem_cons_self _ _)
    rw [taggedSwitchCases_cons_eq] at e
    try simp only [IRGenerator.NewAlloca, IRGenerator.NewLoad, IRGenerator.NewBin, IRGenerator.NewICmp, IRGenerator.NewFCmp, IRGenerator.NewGetElementPtr, IRGenerator.funcValue, NewCall_func, IRGenerator.NewCall, IRGenerator.NewZExt, IRGenerator.NewSelect, IRGenerator.NewBr, IRGenerator.NewCondBr, IRGenerator.NewRet, IRGenerator.NewUnreachable, IRGenerator.NewFunc, IRGenerator.NewGlobalDef] at e
    repeat' (first
      | (first | (revert e; with_reducible apply (h.asResult); done) | (revert e; with_reducible apply (h.failWith); done) | (revert e; with_reducible apply (h.NewInst); done) | (revert e; with_reducible apply (h.NewStore); done) | (revert e; with_reducible apply (h.NewTerm); done) | (revert e; with_reducible apply (h.NewBlock); done) | (revert e; with_reducible apply (ihr _ _ _ _ _ _ _ _ h.ext); done) | (revert e; with_reducible apply (Grows.taggedSwitchValues ih1 h); done) | fail)
      | (apply stepWith e; (focus (with_reducible apply (@ite_ok _ _ _ _ _ _); done)); intro e2
         clear e
         rcases e2 with ⟨_, e⟩ | ⟨_, e⟩)
      | (simp only [bind_assoc, pure_bind] at e)
      | (rw [bind_ok] at e
         obtain ⟨⟨x1, g1⟩, e1, e⟩ := e
         try dsimp only at e
         first
           | (apply stepWith e1; (focus (with_reducible apply (h.NewInst); done)); clear h; intro h) | (apply stepWith e1; (focus (with_reducible apply (h.NewStore); done)); clear h; intro h) | (apply stepWith e1; (focus (with_reducible apply (h.NewTerm); done)); clear h; intro h) | (apply stepWith e1; (focus (with_reducible apply (h.NewBlock); done)); clear h; intro h) | (apply stepWith e1; (focus (with_reducible apply (ihr _ _ _ _ _ _ _ _ h.ext); done)); clear h; intro h) | (apply stepWith e1; (focus (with_reducible apply (Grows.taggedSwitchValues ih1 h); done)); clear h; intro h)
           | (cases e1)
           | (refine Grows.cut (b := g1) ?_ ?_ <;>
               first | (intro h2; clear h e1; rename' h2 => h) | (clear e; rename' e1 => e))
           | fail)
      | (split at e <;>
         try (rename_i heq
              first | (apply stepWith heq; (focus (with_reducible apply (h.NewInst); done)); clear h; intro h) | (apply stepWith heq; (focus (with_reducible apply (h.NewStore); done)); clear h; intro h) | (apply stepWith heq; (focus (with_reducible apply (h.NewTerm); done)); clear h; intro h) | (apply stepWith heq; (focus (with_reducible apply (h.NewBlock); done)); clear h; intro h) | (apply stepWith heq; (focus (with_reducible apply (ihr _ _ _ _ _ _ _ _ h.ext); done)); clear h; intro h) | (apply stepWith heq; (focus (with_reducible apply (Grows.taggedSwitchValues ih1 h); done)); clear h; intro h) | fail))
      | (cases e; first | done | exact h.ext | fail)
      | (dsimp only at e)
      | fail)

theorem Grows.taggedSwitchCases {l : List CaseClause} (ih : ∀ c ∈ l, ∀ e ∈ c.values, ExprOK e)
    {a g x g' : IRGenerator} [Ext g x] {i : Nat} {switchValue : Value} {caseBlocks : List Nat} {currentBlock : Option Nat} {r : Option Nat} (h : Grows a g)
    (e : taggedSwitchCases l i switchValue caseBlocks currentBlock x = .ok (r, g')) : Grows a g' :=
  taggedSwitchCases_grows l ih _ _ _ _ a x g' r h.ext e

theorem booleanSwitchCases_grows (l : List CaseClause) (ih : ∀ c ∈ l, ∀ e ∈ c.values, ExprOK e) :
    ∀ (i : Nat) (caseBlocks : List Nat) (currentBlock : Option Nat) (a x g' : IRGenerator) (r : Option Nat), Grows a x →
      booleanSwitchCases l i caseBlocks currentBlock x = .ok (r, g') → Grows a g' := by
  induction l with
  | nil =>
    intro i caseBlocks currentBlock a x g' r h e
    rw [booleanSwitchCases_nil_eq] at e
    cases e
    exact h
  | cons c rest ihl =>
    intro i caseBlocks currentBlock a x g' r h e
    have ihr := ihl (fun e he => ih e (List.mem_cons_of_mem _ he))
    rcases c with ⟨d, vs, b⟩
    have ih1 : ∀ e ∈ vs, ExprOK e := ih _ (List.mem_cons_self _ _)
    rw [booleanSwitchCases_cons_eq] at e
    try simp only [IRGenerator.NewAlloca, IRGenerator.NewLoad, IRGenerator.NewBin, IRGenerator.NewICmp, IRGenerator.NewFCmp, IRGenerator.NewGetElementPtr, IRGenerator.funcValue, NewCall_func, IRGenerator.NewCall, IRGenerator.NewZExt, IRGenerator.NewSelect, IRGenerator.NewBr, IRGenerator.NewCondBr, IRGenerator.NewRet, IRGenerator.NewUnreachable, IRGenerator.NewFunc, IRGenerator.NewGlobalDef] at e
    repeat' (first
      | (first | (revert e; with_reducible apply (h.asResult); done) | (revert e; with_reducible apply (h.failWith); done) | (revert e; with_reducible apply (h.NewInst); done) | (revert e; with_reducible apply (h.NewStore); done) | (revert e; with_reducible apply (h.NewTerm); done) | (revert e; with_reducible apply (h.NewBlock); done) | (revert e; with_reducible apply (ihr _ _ _ _ _ _ _ h.ext); done) | (revert e; with_reducible apply (Grows.booleanSwitchValues ih1 h); done) | fail)
      | (apply stepWith e; (focus (with_reducible apply (@ite_ok _ _ _ _ _ _); done)); intro e2
         clear e
         rcases e2 with ⟨_, e⟩ | ⟨_, e⟩)
      | (simp only [bind_assoc, pure_bind] at e)
      | (rw [bind_ok] at e
         obtain ⟨⟨x1, g1⟩, e1, e⟩ := e
         try dsimp only at e
         first
           | (apply stepWith e1; (focus (with_reducible apply (h.NewInst); done)); clear h; intro h) | (apply stepWith e1; (focus (with_reducible apply (h.NewStore); done)); clear h; intro h) | (apply stepWith e1; (focus (with_reducible apply (h.NewTerm); done)); clear h; intro h) | (apply stepWith e1; (focus (with_reducible apply (h.NewBlock); done)); clear h; intro h) | (apply stepWith e1; (focus (with_reducible apply (ihr _ _ _ _ _ _ _ h.ext); done)); clear h; intro h) | (apply stepWith e1; (focus (with_reducible apply (Grows.booleanSwitchValues ih1 h); done)); clear h; intro h)
           | (cases e1)
           | (refine Grows.cut (b := g1) ?_ ?_ <;>
               first | (intro h2; clear h e1; rename' h2 => h) | (clear e; rename' e1 => e))
           | fail)
      | (split at e <;>
         try (rename_i heq
              first | (apply stepWith heq; (focus (with_reducible apply (h.NewInst); done)); clear h; intro h) | (apply stepWith heq; (focus (with_reducible apply (h.NewStore); done)); clear h; intro h) | (apply stepWith heq; (focus (with_reducible apply (h.NewTerm); done)); clear h; intro h) | (apply stepWith heq; (focus (with_reducible apply (h.NewBlock); done)); clear h; intro h) | (apply stepWith heq; (focus (with_reducible apply (ihr _ _ _ _ _ _ _ h.ext); done)); clear h; intro h) | (apply stepWith heq; (focus (with_reducible apply (Grows.booleanSwitchValues ih1 h); done)); clear h; intro h) | fail))
      | (cases e; first | done | exact h.ext | fail)
      | (dsimp only at e)
      | fail)

theorem Grows.booleanSwitchCases {l : List CaseClause} (ih : ∀ c ∈ l, ∀ e ∈ c.values, ExprOK e)
    {a g x g' : IRGenerator} [Ext g x] {i : Nat} {caseBlocks : List Nat} {currentBlock : Option Nat} {r : Option Nat} (h : Grows a g)
    (e : booleanSwitchCases l i caseBlocks currentBlock x = .ok (r, g')) : Grows a g' :=
  booleanSwitchCases_grows l ih _ _ _ a x g' r h.ext e

theorem switchBodies_grows (l : List CaseClause) (ih : ∀ c ∈ l, ∀ s ∈ c.body, StmtOK s) :
    ∀ (i : Nat) (caseBlocks : List Nat) (endBlock : Nat) (a x g' : IRGenerator) (r : Unit), Grows a x →
      switchBodies l i caseBlocks endBlock x = .ok (r, g') → Grows a g' := by
  induction l with
  | nil =>
    intro i caseBlocks endBlock a x g' r h e
    rw [switchBodies_nil_eq] at e
    cases e
    exact h
  | cons c rest ihl =>
    intro i caseBlocks endBlock a x g' r h e
    have ihr := ihl (fun e he => ih e (List.mem_cons_of_mem _ he))
    rcases c with ⟨d, vs, b⟩
    have ih1 : ∀ s ∈ b, StmtOK s := ih _ (List.mem_cons_self _ _)
    rw [switchBodies_cons_eq] at e
    try simp only [IRGenerator.NewAlloca, IRGenerator.NewLoad, IRGenerator.NewBin, IRGenerator.NewICmp, IRGenerator.NewFCmp, IRGenerator.NewGetElementPtr, IRGenerator.funcValue, NewCall_func, IRGenerator.NewCall, IRGenerator.NewZExt, IRGenerator.NewSelect, IRGenerator.NewBr, IRGenerator.NewCondBr, IRGenerator.NewRet, IRGenerator.NewUnreachable, IRGenerator.NewFunc, IRGenerator.NewGlobalDef] at e
    repeat' (first
      | (first | (revert e; with_reducible apply (h.asResult); done) | (revert e; with_reducible apply (h.failWith); done) | (revert e; with_reducible apply (h.NewInst); done) | (revert e; with_reducible apply (h.NewStore); done) | (revert e; with_reducible apply (h.NewTerm); done) | (revert e; with_reducible apply (h.NewBlock); done) | (revert e; with_reducible apply (ihr _ _ _ _ _ _ _ h.ext); done) | (revert e; with_reducible apply (Grows.caseBody ih1 h); done) | (revert e; with_reducible apply (h.brIfOpen); done) | fail)
      | (apply stepWith e; (focus (with_reducible apply (@ite_ok _ _ _ _ _ _); done)); intro e2
         clear e
         rcases e2 with ⟨_, e⟩ | ⟨_, e⟩)
      | (simp only [bind_assoc, pure_bind] at e)
      | (rw [bind_ok] at e
         obtain ⟨⟨x1, g1⟩, e1, e⟩ := e
         try dsimp only at e
         first
           | (apply stepWith e1; (focus (with_reducible apply (h.NewInst); done)); clear h; intro h) | (apply stepWith e1; (focus (with_reducible apply (h.NewStore); done)); clear h; intro h) | (apply stepWith e1; (focus (with_reducible apply (h.NewTerm); done)); clear h; intro h) | (apply stepWith e1; (focus (with_reducible apply (h.NewBlock); done)); clear h; intro h) | (apply stepWith e1; (focus (with_reducible apply (ihr _ _ _ _ _ _ _ h.ext); done)); clear h; intro h) | (apply stepWith e1; (focus (with_reducible apply (Grows.caseBody ih1 h); done)); clear h; intro h) | (apply stepWith e1; (focus (with_reducible apply (h.brIfOpen); done)); clear h; intro h)
           | (cases e1)
           | (refine Grows.cut (b := g1) ?_ ?_ <;>
               first | (intro h2; clear h e1; rename' h2 => h) | (clear e; rename' e1 => e))
           | fail)
      | (split at e <;>
         try (rename_i heq
              first | (apply stepWith heq; (focus (with_reducible apply (h.NewInst); done)); clear h; intro h) | (apply stepWith heq; (focus (with_reducible apply (h.NewStore); done)); clear h; intro h) | (apply stepWith heq; (focus (with_reducible apply (h.NewTerm); done)); clear h; intro h) | (apply stepWith heq; (focus (with_reducible apply (h.NewBlock); done)); clear h; intro h) | (apply stepWith heq; (focus (with_reducible apply (ihr _ _ _ _ _ _ _ h.ext); done)); clear h; intro h) | (apply stepWith heq; (focus (with_reducible apply (Grows.caseBody ih1 h); done)); clear h; intro h) | (apply stepWith heq; (focus (with_reducible apply (h.brIfOpen); done)); clear h; intro h) | fail))
      | (cases e; first | done | exact h.ext | fail)
      | (dsimp only at e)
      | fail)

theorem Grows.switchBodies {l : List CaseClause} (ih : ∀ c ∈ l, ∀ s ∈ c.body, StmtOK s)
    {a g x g' : IRGenerator} [Ext g x] {i : Nat} {caseBlocks : List Nat} {endBlock : Nat} {r : Unit} (h : Grows a g)
    (e : switchBodies l i caseBlocks endBlock x = .ok (r, g')) : Grows a g' :=
  switchBodies_grows l ih _ _ _ a x g' r h.ext e

theorem ExprOK.identifier (name : String) :
    ExprOK (.Identifier name) := by
  constructor
  intro a g x g' r _ h e
  replace h : Grows a x := h.ext
  rw [generateExpression_identifier_eq] at e
  try simp only [IRGenerator.NewAlloca, IRGenerator.NewLoad, IRGenerator.NewBin, IRGenerator.NewICmp, IRGenerator.NewFCmp, IRGenerator.NewGetElementPtr, IRGenerator.funcValue, NewCall_func, IRGenerator.NewCall, IRGenerator.NewZExt, IRGenerator.NewSelect, IRGenerator.NewBr, IRGenerator.NewCondBr, IRGenerator.NewRet, IRGenerator.NewUnreachable, IRGenerator.NewFunc, IRGenerator.NewGlobalDef] at e
  repeat' (first
    | (first | (revert e; with_reducible apply (h.asResult); done) | (revert e; with_reducible apply (h.failWith); done) | (revert e; with_reducible apply (h.NewInst); done) | (revert e; with_reducible apply (h.NewStore); done) | (revert e; with_reducible apply (h.NewTerm); done) | (revert e; with_reducible apply (h.NewBlock); done) | (revert e; with_reducible apply (h.generateIdentifier); done) | fail)
    | (apply stepWith e; (focus (with_reducible apply (@ite_ok _ _ _ _ _ _); done)); intro e2
       clear e
       rcases e2 with ⟨_, e⟩ | ⟨_, e⟩)
    | (simp only [bind_assoc, pure_bind] at e)
    | (rw [bind_ok] at e
       obtain ⟨⟨x1, g1⟩, e1, e⟩ := e
       try dsimp only at e
       first
         | (apply stepWith e1; (focus (with_reducible apply (h.NewInst); done)); clear h; intro h) | (apply stepWith e1; (focus (with_reducible apply (h.NewStore); done)); clear h; intro h) | (apply stepWith e1; (focus (with_reducible apply (h.NewTerm); done)); clear h; intro h) | (apply stepWith e1; (focus (with_reducible apply (h.NewBlock); done)); clear h; intro h) | (apply stepWith e1; (focus (with_reducible apply (h.generateIdentifier); done)); clear h; intro h)
         | (cases e1)
         | (refine Grows.cut (b := g1) ?_ ?_ <;>
             first | (intro h2; clear h e1; rename' h2 => h) | (clear e; rename' e1 => e))
         | fail)
    | (split at e <;>
       try (rename_i heq
            first | (apply stepWith heq; (focus (with_reducible apply (h.NewInst); done)); clear h; intro h) | (apply stepWith heq; (focus (with_reducible apply (h.NewStore); done)); clear h; intro h) | (apply stepWith heq; (focus (with_reducible apply (h.NewTerm); done)); clear h; intro h) | (apply stepWith heq; (focus (with_reducible apply (h.NewBlock); done)); clear h; intro h) | (apply stepWith heq; (focus (with_reducible apply (h.generateIdentifier); done)); clear h; intro h) | fail))
    | (cases e; first | done | exact h.ext | fail)
    | (dsimp only at e)
    | fail)

theorem ExprOK.integer (v : Int) :
    ExprOK (.IntegerLiteral v) := by
  constructor
  intro a g x g' r _ h e
  replace h : Grows a x := h.ext
  rw [generateExpression_integer_eq] at e
  try simp only [IRGenerator.NewAlloca, IRGenerator.NewLoad, IRGenerator.NewBin, IRGenerator.NewICmp, IRGenerator.NewFCmp, IRGenerator.NewGetElementPtr, IRGenerator.funcValue, NewCall_func, IRGenerator.NewCall, IRGenerator.NewZExt, IRGenerator.NewSelect, IRGenerator.NewBr, IRGenerator.NewCondBr, IRGenerator.NewRet, IRGenerator.NewUnreachable, IRGenerator.NewFunc, IRGenerator.NewGlobalDef] at e
  repeat' (first
    | (first | (revert e; with_reducible apply (h.asResult); done) | (revert e; with_reducible apply (h.failWith); done) | (revert e; with_reducible apply (h.NewInst); done) | (revert e; with_reducible apply (h.NewStore); done) | (revert e; with_reducible apply (h.NewTerm); done) | (revert e; with_reducible apply (h.NewBlock); done) | fail)
    | (apply stepWith e; (focus (with_reducible apply (@ite_ok _ _ _ _ _ _); done)); intro e2
       clear e
       rcases e2 with ⟨_, e⟩ | ⟨_, e⟩)
    | (simp only [bind_assoc, pure_bind] at e)
    | (rw [bind_ok] at e
       obtain ⟨⟨x1, g1⟩, e1, e⟩ := e
       try dsimp only at e
       first
         | (apply stepWith e1; (focus (with_reducible apply (h.NewInst); done)); clear h; intro h) | (apply stepWith e1; (focus (with_reducible apply (h.NewStore); done)); clear h; intro h) | (apply stepWith e1; (focus (with_reducible apply (h.NewTerm); done)); clear h; intro h) | (apply stepWith e1; (focus (with_reducible apply (h.NewBlock); done)); clear h; intro h)
         | (cases e1)
         | (refine Grows.cut (b := g1) ?_ ?_ <;>
             first | (intro h2; clear h e1; rename' h2 => h) | (clear e; rename' e1 => e))
         | fail)
    | (split at e <;>
       try (rename_i heq
            first | (apply stepWith heq; (focus (with_reducible apply (h.NewInst); done)); clear h; intro h) | (apply stepWith heq; (focus (with_reducible apply (h.NewStore); done)); clear h; intro h) | (apply stepWith heq; (focus (with_reducible apply (h.NewTerm); done)); clear h; intro h) | (apply stepWith heq; (focus (with_reducible apply (h.NewBlock); done)); clear h; intro h) | fail))
    | (cases e; first | done | exact h.ext | fail)
    | (dsimp only at e)
    | fail)

theorem ExprOK.float (b : Nat) :
    ExprOK (.FloatLiteral b) := by
  constructor
  intro a g x g' r _ h e
  replace h : Grows a x := h.ext
  rw [generateExpression_float_eq] at e
  try simp only [IRGenerator.NewAlloca, IRGenerator.NewLoad, IRGenerator.NewBin, IRGenerator.NewICmp, IRGenerator.NewFCmp, IRGenerator.NewGetElementPtr, IRGenerator.funcValue, NewCall_func, IRGenerator.NewCall, IRGenerator.NewZExt, IRGenerator.NewSelect, IRGenerator.NewBr, IRGenerator.NewCondBr, IRGenerator.NewRet, IRGenerator.NewUnreachable, IRGenerator.NewFunc, IRGenerator.NewGlobalDef] at e
  repeat' (first
    | (first | (revert e; with_reducible apply (h.asResult); done) | (revert e; with_reducible apply (h.failWith); done) | (revert e; with_reducible apply (h.NewInst); done) | (revert e; with_reducible apply (h.NewStore); done) | (revert e; with_reducible apply (h.NewTerm); done) | (revert e; with_reducible apply (h.NewBlock); done) | fail)
    | (apply stepWith e; (focus (with_reducible apply (@ite_ok _ _ _ _ _ _); done)); intro e2
       clear e
       rcases e2 with ⟨_, e⟩ | ⟨_, e⟩)
    | (simp only [bind_assoc, pure_bind] at e)
    | (rw [bind_ok] at e
       obtain ⟨⟨x1, g1⟩, e1, e⟩ := e
       try dsimp only at e
       first
         | (apply stepWith e1; (focus (with_reducible apply (h.NewInst); done)); clear h; intro h) | (apply stepWith e1; (focus (with_reducible apply (h.NewStore); done)); clear h; intro h) | (apply stepWith e1; (focus (with_reducible apply (h.NewTerm); done)); clear h; intro h) | (apply stepWith e1; (focus (with_reducible apply (h.NewBlock); done)); clear h; intro h)
         | (cases e1)
         | (refine Grows.cut (b := g1) ?_ ?_ <;>
             first | (intro h2; clear h e1; rename' h2 => h) | (clear e; rename' e1 => e))
         | fail)
    | (split at e <;>
       try (rename_i heq
            first | (apply stepWith heq; (focus (with_reducible apply (h.NewInst); done)); clear h; intro h) | (apply stepWith heq; (focus (with_reducible apply (h.NewStore); done)); clear h; intro h) | (apply stepWith heq; (focus (with_reducible apply (h.NewTerm); done)); clear h; intro h) | (apply stepWith heq; (focus (with_reducible apply (h.NewBlock); done)); clear h; intro h) | fail))
    | (cases e; first | done | exact h.ext | fail)
    | (dsimp only at e)
    | fail)

theorem ExprOK.string (v : String) :
    ExprOK (.StringLiteral v) := by
  constructor
  intro a g x g' r _ h e
  replace h : Grows a x := h.ext
  rw [generateExpression_string_eq] at e
  try simp only [IRGenerator.NewAlloca, IRGenerator.NewLoad, IRGenerator.NewBin, IRGenerator.NewICmp, IRGenerator.NewFCmp, IRGenerator.NewGetElementPtr, IRGenerator.funcValue, NewCall_func, IRGenerator.NewCall, IRGenerator.NewZExt, IRGenerator.NewSelect, IRGenerator.NewBr, IRGenerator.NewCondBr, IRGenerator.NewRet, IRGenerator.NewUnreachable, IRGenerator.NewFunc, IRGenerator.NewGlobalDef] at e
  repeat' (first
    | (first | (revert e; with_reducible apply (h.asResult); done) | (revert e; with_reducible apply (h.failWith); done) | (revert e; with_reducible apply (h.NewInst); done) | (revert e; with_reducible apply (h.NewStore); done) | (revert e; with_reducible apply (h.NewTerm); done) | (revert e; with_reducible apply (h.NewBlock); done) | fail)
    | (apply stepWith e; (focus (with_reducible apply (@ite_ok _ _ _ _ _ _); done)); intro e2
       clear e
       rcases e2 with ⟨_, e⟩ | ⟨_, e⟩)
    | (simp only [bind_assoc, pure_bind] at e)
    | (rw [bind_ok] at e
       obtain ⟨⟨x1, g1⟩, e1, e⟩ := e
       try dsimp only at e
       first
         | (apply stepWith e1; (focus (with_reducible apply (h.NewInst); done)); clear h; intro h) | (apply stepWith e1; (focus (with_reducible apply (h.NewStore); done)); clear h; intro h) | (apply stepWith e1; (focus (with_reducible apply (h.NewTerm); done)); clear h; intro h) | (apply stepWith e1; (focus (with_reducible apply (h.NewBlock); done)); clear h; intro h)
         | (cases e1)
         | (refine Grows.cut (b := g1) ?_ ?_ <;>
             first | (intro h2; clear h e1; rename' h2 => h) | (clear e; rename' e1 => e))
         | fail)
    | (split at e <;>
       try (rename_i heq
            first | (apply stepWith heq; (focus (with_reducible apply (h.generateStringLiteral); done)); clear h; intro h) | (apply stepWith heq; (focus (with_reducible apply (h.NewInst); done)); clear h; intro h) | (apply stepWith heq; (focus (with_reducible apply (h.NewStore); done)); clear h; intro h) | (apply stepWith heq; (focus (with_reducible apply (h.NewTerm); done)); clear h; intro h) | (apply stepWith heq; (focus (with_reducible apply (h.NewBlock); done)); clear h; intro h) | fail))
    | (cases e; first | done | exact h.ext | fail)
    | (dsimp only at e)
    | fail)

theorem ExprOK.boolean (v : Bool) :
    ExprOK (.BooleanLiteral v) := by
  constructor
  intro a g x g' r _ h e
  replace h : Grows a x := h.ext
  rw [generateExpression_boolean_eq] at e
  try simp only [IRGenerator.NewAlloca, IRGenerator.NewLoad, IRGenerator.NewBin, IRGenerator.NewICmp, IRGenerator.NewFCmp, IRGenerator.NewGetElementPtr, IRGenerator.funcValue, NewCall_func, IRGenerator.NewCall, IRGenerator.NewZExt, IRGenerator.NewSelect, IRGenerator.NewBr, IRGenerator.NewCondBr, IRGenerator.NewRet, IRGenerator.NewUnreachable, IRGenerator.NewFunc, IRGenerator.NewGlobalDef] at e
  repeat' (first
    | (first | (revert e; with_reducible apply (h.asResult); done) | (revert e; with_reducible apply (h.failWith); done) | (revert e; with_reducible apply (h.NewInst); done) | (revert e; with_reducible apply (h.NewStore); done) | (revert e; with_reducible apply (h.NewTerm); done) | (revert e; with_reducible apply (h.NewBlock); done) | fail)
    | (apply stepWith e; (focus (with_reducible apply (@ite_ok _ _ _ _ _ _); done)); intro e2
       clear e
       rcases e2 with ⟨_, e⟩ | ⟨_, e⟩)
    | (simp only [bind_assoc, pure_bind] at e)
    | (rw [bind_ok] at e
       obtain ⟨⟨x1, g1⟩, e1, e⟩ := e
       try dsimp only at e
       first
         | (apply stepWith e1; (focus (with_reducible apply (h.NewInst); done)); clear h; intro h) | (apply stepWith e1; (focus (with_reducible apply (h.NewStore); done)); clear h; intro h) | (apply stepWith e1; (focus (with_reducible apply (h.NewTerm); done)); clear h; intro h) | (apply stepWith e1; (focus (with_reducible apply (h.NewBlock); done)); clear h; intro h)
         | (cases e1)
         | (refine Grows.cut (b := g1) ?_ ?_ <;>
             first | (intro h2; clear h e1; rename' h2 => h) | (clear e; rename' e1 => e))
         | fail)
    | (split at e <;>
       try (rename_i heq
            first | (apply stepWith heq; (focus (with_reducible apply (h.NewInst); done)); clear h; intro h) | (apply stepWith heq; (focus (with_reducible apply (h.NewStore); done)); clear h; intro h) | (apply stepWith heq; (focus (with_reducible apply (h.NewTerm); done)); clear h; intro h) | (apply stepWith heq; (focus (with_reducible apply (h.NewBlock); done)); clear h; intro h) | fail))
    | (cases e; first | done | exact h.ext | fail)
    | (dsimp only at e)
    | fail)

theorem ExprOK.prefix (op : String) {right : Expression} (ihr : ExprOK right) :
    ExprOK (.PrefixExpression op right) := by
  constructor
  intro a g x g' r _ h e
  replace h : Grows a x := h.ext
  rw [generateExpression_prefix_eq] at e
  try simp only [IRGenerator.NewAlloca, IRGenerator.NewLoad, IRGenerator.NewBin, IRGenerator.NewICmp, IRGenerator.NewFCmp, IRGenerator.NewGetElementPtr, IRGenerator.funcValue, NewCall_func, IRGenerator.NewCall, IRGenerator.NewZExt, IRGenerator.NewSelect, IRGenerator.NewBr, IRGenerator.NewCondBr, IRGenerator.NewRet, IRGenerator.NewUnreachable, IRGenerator.NewFunc, IRGenerator.NewGlobalDef] at e
  repeat' (first
    | (first | (revert e; with_reducible apply (h.asResult); done) | (revert e; with_reducible apply (h.failWith); done) | (revert e; with_reducible apply (h.NewInst); done) | (revert e; with_reducible apply (h.NewStore); done) | (revert e; with_reducible apply (h.NewTerm); done) | (revert e; with_reducible apply (h.NewBlock); done) | (revert e; with_reducible apply (ihr.grows h); done) | (revert e; with_reducible apply (h.prefixOperator); done) | fail)
    | (apply stepWith e; (focus (with_reducible apply (@ite_ok _ _ _ _ _ _); done)); intro e2
       clear e
       rcases e2 with ⟨_, e⟩ | ⟨_, e⟩)
    | (simp only [bind_assoc, pure_bind] at e)
    | (rw [bind_ok] at e
       obtain ⟨⟨x1, g1⟩, e1, e⟩ := e
       try dsimp only at e
       first
         | (apply stepWith e1; (focus (with_reducible apply (h.NewInst); done)); clear h; intro h) | (apply stepWith e1; (focus (with_reducible apply (h.NewStore); done)); clear h; intro h) | (apply stepWith e1; (focus (with_reducible apply (h.NewTerm); done)); clear h; intro h) | (apply stepWith e1; (focus (with_reducible apply (h.NewBlock); done)); clear h; intro h) | (apply stepWith e1; (focus (with_reducible apply (ihr.grows h); done)); clear h; intro h) | (apply stepWith e1; (focus (with_reducible apply (h.prefixOperator); done)); clear h; intro h)
         | (cases e1)
         | (refine Grows.cut (b := g1) ?_ ?_ <;>
             first | (intro h2; clear h e1; rename' h2 => h) | (clear e; rename' e1 => e))
         | fail)
    | (split at e <;>
       try (rename_i heq
            first | (apply stepWith heq; (focus (with_reducible apply (h.NewInst); done)); clear h; intro h) | (apply stepWith heq; (focus (with_reducible apply (h.NewStore); done)); clear h; intro h) | (apply stepWith heq; (focus (with_reducible apply (h.NewTerm); done)); clear h; intro h) | (apply stepWith heq; (focus (with_reducible apply (h.NewBlock); done)); clear h; intro h) | (apply stepWith heq; (focus (with_reducible apply (ihr.grows h); done)); clear h; intro h) | (apply stepWith heq; (focus (with_reducible apply (h.prefixOperator); done)); clear h; intro h) | fail))
    | (cases e; first | done | exact h.ext | fail)
    | (dsimp only at e)
    | fail)

theorem ExprOK.infix {left : Expression} (op : String) {right : Expression} (ihl : ExprOK left) (ihr : ExprOK right) :
    ExprOK (.InfixExpression left op right) := by
  constructor
  intro a g x g' r _ h e
  replace h : Grows a x := h.ext
  rw [generateExpression_infix_eq] at e
  try simp only [IRGenerator.NewAlloca, IRGenerator.NewLoad, IRGenerator.NewBin, IRGenerator.NewICmp, IRGenerator.NewFCmp, IRGenerator.NewGetElementPtr, IRGenerator.funcValue, NewCall_func, IRGenerator.NewCall, IRGenerator.NewZExt, IRGenerator.NewSelect, IRGenerator.NewBr, IRGenerator.NewCondBr, IRGenerator.NewRet, IRGenerator.NewUnreachable, IRGenerator.NewFunc, IRGenerator.NewGlobalDef] at e
  repeat' (first
    | (first | (revert e; with_reducible apply (h.asResult); done) | (revert e; with_reducible apply (h.failWith); done) | (revert e; with_reducible apply (h.NewInst); done) | (revert e; with_reducible apply (h.NewStore); done) | (revert e; with_reducible apply (h.NewTerm); done) | (revert e; with_reducible apply (h.NewBlock); done) | (revert e; with_reducible apply (ihl.grows h); done) | (revert e; with_reducible apply (ihr.grows h); done) | (revert e; with_reducible apply (h.infixOperator); done) | fail)
    | (apply stepWith e; (focus (with_reducible apply (@ite_ok _ _ _ _ _ _); done)); intro e2
       clear e
       rcases e2 with ⟨_, e⟩ | ⟨_, e⟩)
    | (simp only [bind_assoc, pure_bind] at e)
    | (rw [bind_ok] at e
       obtain ⟨⟨x1, g1⟩, e1, e⟩ := e
       try dsimp only at e
       first
         | (apply stepWith e1; (focus (with_reducible apply (h.NewInst); done)); clear h; intro h) | (apply stepWith e1; (focus (with_reducible apply (h.NewStore); done)); clear h; intro h) | (apply stepWith e1; (focus (with_reducible apply (h.NewTerm); done)); clear h; intro h) | (apply stepWith e1; (focus (with_reducible apply (h.NewBlock); done)); clear h; intro h) | (apply stepWith e1; (focus (with_reducible apply (ihl.grows h); done)); clear h; intro h) | (apply stepWith e1; (focus (with_reducible apply (ihr.grows h); done)); clear h; intro h) | (apply stepWith e1; (focus (with_reducible apply (h.infixOperator); done)); clear h; intro h)
         | (cases e1)
         | (refine Grows.cut (b := g1) ?_ ?_ <;>
             first | (intro h2; clear h e1; rename' h2 => h) | (clear e; rename' e1 => e))
         | fail)
    | (split at e <;>
       try (rename_i heq
            first | (apply stepWith heq; (focus (with_reducible apply (h.NewInst); done)); clear h; intro h) | (apply stepWith heq; (focus (with_reducible apply (h.NewStore); done)); clear h; intro h) | (apply stepWith heq; (focus (with_reducible apply (h.NewTerm); done)); clear h; intro h) | (apply stepWith heq; (focus (with_reducible apply (h.NewBlock); done)); clear h; intro h) | (apply stepWith heq; (focus (with_reducible apply (ihl.grows h); done)); clear h; intro h) | (apply stepWith heq; (focus (with_reducible apply (ihr.grows h); done)); clear h; intro h) | (apply stepWith heq; (focus (with_reducible apply (h.infixOperator); done)); clear h; intro h) | fail))
    | (cases e; first | done | exact h.ext | fail)
    | (dsimp only at e)
    | fail)

theorem ExprOK.postfix (left : Expression) (op : String) :
    ExprOK (.PostfixExpression left op) := by
  constructor
  intro a g x g' r _ h e
  replace h : Grows a x := h.ext
  rw [generateExpression_postfix_eq] at e
  try simp only [IRGenerator.NewAlloca, IRGenerator.NewLoad, IRGenerator.NewBin, IRGenerator.NewICmp, IRGenerator.NewFCmp, IRGenerator.NewGetElementPtr, IRGenerator.funcValue, NewCall_func, IRGenerator.NewCall, IRGenerator.NewZExt, IRGenerator.NewSelect, IRGenerator.NewBr, IRGenerator.NewCondBr, IRGenerator.NewRet, IRGenerator.NewUnreachable, IRGenerator.NewFunc, IRGenerator.NewGlobalDef] at e
  repeat' (first
    | (first | (revert e; with_reducible apply (h.asResult); done) | (revert e; with_reducible apply (h.failWith); done) | (revert e; with_reducible apply (h.NewInst); done) | (revert e; with_reducible apply (h.NewStore); done) | (revert e; with_reducible apply (h.NewTerm); done) | (revert e; with_reducible apply (h.NewBlock); done) | (revert e; with_reducible apply (h.generatePostfixExpression); done) | fail)
    | (apply stepWith e; (focus (with_reducible apply (@ite_ok _ _ _ _ _ _); done)); intro e2
       clear e
       rcases e2 with ⟨_, e⟩ | ⟨_, e⟩)
    | (simp only [bind_assoc, pure_bind] at e)
    | (rw [bind_ok] at e
       obtain ⟨⟨x1, g1⟩, e1, e⟩ := e
       try dsimp only at e
       first
         | (apply stepWith e1; (focus (with_reducible apply (h.NewInst); done)); clear h; intro h) | (apply stepWith e1; (focus (with_reducible apply (h.NewStore); done)); clear h; intro h) | (apply stepWith e1; (focus (with_reducible apply (h.NewTerm); done)); clear h; intro h) | (apply stepWith e1; (focus (with_reducible apply (h.NewBlock); done)); clear h; intro h) | (apply stepWith e1; (focus (with_reducible apply (h.generatePostfixExpression); done)); clear h; intro h)
         | (cases e1)
         | (refine Grows.cut (b := g1) ?_ ?_ <;>
             first | (intro h2; clear h e1; rename' h2 => h) | (clear e; rename' e1 => e))
         | fail)
    | (split at e <;>
       try (rename_i heq
            first | (apply stepWith heq; (focus (with_reducible apply (h.NewInst); done)); clear h; intro h) | (apply stepWith heq; (focus (with_reducible apply (h.NewStore); done)); clear h; intro h) | (apply stepWith heq; (focus (with_reducible apply (h.NewTerm); done)); clear h; intro h) | (apply stepWith heq; (focus (with_reducible apply (h.NewBlock); done)); clear h; intro h) | (apply stepWith heq; (focus (with_reducible apply (h.generatePostfixExpression); done)); clear h; intro h) | fail))
    | (cases e; first | done | exact h.ext | fail)
    | (dsimp only at e)
    | fail)

theorem ExprOK.call (function : Expression) {arguments : List Expression} (ih : ∀ e ∈ arguments, ExprOK e) :
    ExprOK (.CallExpression function arguments) := by
  constructor
  intro a g x g' r _ h e
  replace h : Grows a x := h.ext
  rw [generateExpression_call_eq] at e
  try simp only [IRGenerator.NewAlloca, IRGenerator.NewLoad, IRGenerator.NewBin, IRGenerator.NewICmp, IRGenerator.NewFCmp, IRGenerator.NewGetElementPtr, IRGenerator.funcValue, NewCall_func, IRGenerator.NewCall, IRGenerator.NewZExt, IRGenerator.NewSelect, IRGenerator.NewBr, IRGenerator.NewCondBr, IRGenerator.NewRet, IRGenerator.NewUnreachable, IRGenerator.NewFunc, IRGenerator.NewGlobalDef] at e
  repeat' (first
    | (first | (revert e; with_reducible apply (h.asResult); done) | (revert e; with_reducible apply (h.failWith); done) | (revert e; with_reducible apply (h.NewInst); done) | (revert e; with_reducible apply (h.NewStore); done) | (revert e; with_reducible apply (h.NewTerm); done) | (revert e; with_reducible apply (h.NewBlock); done) | (revert e; with_reducible apply (Grows.generateLenCall ih h); done) | (revert e; with_reducible apply (Grows.generateCapCall ih h); done) | (revert e; with_reducible apply (Grows.generateAppendCall ih h); done) | (revert e; with_reducible apply (Grows.generateMakeCall ih h); done) | (revert e; with_reducible apply (Grows.callArguments ih h); done) | fail)
    | (apply stepWith e; (focus (with_reducible apply (@ite_ok _ _ _ _ _ _); done)); intro e2
       clear e
       rcases e2 with ⟨_, e⟩ | ⟨_, e⟩)
    | (simp only [bind_assoc, pure_bind] at e)
    | (rw [bind_ok] at e
       obtain ⟨⟨x1, g1⟩, e1, e⟩ := e
       try dsimp only at e
       first
         | (apply stepWith e1; (focus (with_reducible apply (h.NewInst); done)); clear h; intro h) | (apply stepWith e1; (focus (with_reducible apply (h.NewStore); done)); clear h; intro h) | (apply stepWith e1; (focus (with_reducible apply (h.NewTerm); done)); clear h; intro h) | (apply stepWith e1; (focus (with_reducible apply (h.NewBlock); done)); clear h; intro h) | (apply stepWith e1; (focus (with_reducible apply (Grows.generateLenCall ih h); done)); clear h; intro h) | (apply stepWith e1; (focus (with_reducible apply (Grows.generateCapCall ih h); done)); clear h; intro h) | (apply stepWith e1; (focus (with_reducible apply (Grows.generateAppendCall ih h); done)); clear h; intro h) | (apply stepWith e1; (focus (with_reducible apply (Grows.generateMakeCall ih h); done)); clear h; intro h) | (apply stepWith e1; (focus (with_reducible apply (Grows.callArguments ih h); done)); clear h; intro h)
         | (cases e1)
         | (refine Grows.cut (b := g1) ?_ ?_ <;>
             first | (intro h2; clear h e1; rename' h2 => h) | (clear e; rename' e1 => e))
         | fail)
    | (split at e <;>
       try (rename_i heq
            first | (apply stepWith heq; (focus (with_reducible apply (h.resolveCallee); done)); clear h; intro h) | (apply stepWith heq; (focus (with_reducible apply (h.NewInst); done)); clear h; intro h) | (apply stepWith heq; (focus (with_reducible apply (h.NewStore); done)); clear h; intro h) | (apply stepWith heq; (focus (with_reducible apply (h.NewTerm); done)); clear h; intro h) | (apply stepWith heq; (focus (with_reducible apply (h.NewBlock); done)); clear h; intro h) | (apply stepWith heq; (focus (with_reducible apply (Grows.generateLenCall ih h); done)); clear h; intro h) | (apply stepWith heq; (focus (with_reducible apply (Grows.generateCapCall ih h); done)); clear h; intro h) | (apply stepWith heq; (focus (with_reducible apply (Grows.generateAppendCall ih h); done)); clear h; intro h) | (apply stepWith heq; (focus (with_reducible apply (Grows.generateMakeCall ih h); done)); clear h; intro h) | (apply stepWith heq; (focus (with_reducible apply (Grows.callArguments ih h); done)); clear h; intro h) | fail))
    | (cases e; first | done | exact h.ext | fail)
    | (dsimp only at e)
    | fail)

theorem ExprOK.memberCall (object member : Expression) {arguments : List Expression} (ih : ∀ e ∈ arguments, ExprOK e) :
    ExprOK (.MemberCall object member arguments) := by
  constructor
  intro a g x g' r _ h e
  replace h : Grows a x := h.ext
  rw [generateExpression_memberCall_eq] at e
  try simp only [IRGenerator.NewAlloca, IRGenerator.NewLoad, IRGenerator.NewBin, IRGenerator.NewICmp, IRGenerator.NewFCmp, IRGenerator.NewGetElementPtr, IRGenerator.funcValue, NewCall_func, IRGenerator.NewCall, IRGenerator.NewZExt, IRGenerator.NewSelect, IRGenerator.NewBr, IRGenerator.NewCondBr, IRGenerator.NewRet, IRGenerator.NewUnreachable, IRGenerator.NewFunc, IRGenerator.NewGlobalDef] at e
  repeat' (first
    | (first | (revert e; with_reducible apply (h.asResult); done) | (revert e; with_reducible apply (h.failWith); done) | (revert e; with_reducible apply (h.NewInst); done) | (revert e; with_reducible apply (h.NewStore); done) | (revert e; with_reducible apply (h.NewTerm); done) | (revert e; with_reducible apply (h.NewBlock); done) | (revert e; with_reducible apply (h.printfNoArguments); done) | (revert e; with_reducible apply (Grows.printfArguments ih h); done) | (revert e; with_reducible apply (h.printfCall); done) | (revert e; with_reducible apply (Grows.generateExitCall ih h); done) | (revert e; with_reducible apply (Grows.callArguments ih h); done) | fail)
    | (apply stepWith e; (focus (with_reducible apply (@ite_ok _ _ _ _ _ _); done)); intro e2
       clear e
       rcases e2 with ⟨_, e⟩ | ⟨_, e⟩)
    | (simp only [bind_assoc, pure_bind] at e)
    | (rw [bind_ok] at e
       obtain ⟨⟨x1, g1⟩, e1, e⟩ := e
       try dsimp only at e
       first
         | (apply stepWith e1; (focus (with_reducible apply (h.NewInst); done)); clear h; intro h) | (apply stepWith e1; (focus (with_reducible apply (h.NewStore); done)); clear h; intro h) | (apply stepWith e1; (focus (with_reducible apply (h.NewTerm); done)); clear h; intro h) | (apply stepWith e1; (focus (with_reducible apply (h.NewBlock); done)); clear h; intro h) | (apply stepWith e1; (focus (with_reducible apply (h.printfNoArguments); done)); clear h; intro h) | (apply stepWith e1; (focus (with_reducible apply (Grows.printfArguments ih h); done)); clear h; intro h) | (apply stepWith e1; (focus (with_reducible apply (h.printfCall); done)); clear h; intro h) | (apply stepWith e1; (focus (with_reducible apply (Grows.generateExitCall ih h); done)); clear h; intro h) | (apply stepWith e1; (focus (with_reducible apply (Grows.callArguments ih h); done)); clear h; intro h)
         | (cases e1)
         | (refine Grows.cut (b := g1) ?_ ?_ <;>
             first | (intro h2; clear h e1; rename' h2 => h) | (clear e; rename' e1 => e))
         | fail)
    | (split at e <;>
       try (rename_i heq
            first | (apply stepWith heq; (focus (with_reducible apply (h.getOrDeclare); done)); clear h; intro h) | (apply stepWith heq; (focus (with_reducible apply (h.resolveCallee); done)); clear h; intro h) | (apply stepWith heq; (focus (with_reducible apply (h.NewInst); done)); clear h; intro h) | (apply stepWith heq; (focus (with_reducible apply (h.NewStore); done)); clear h; intro h) | (apply stepWith heq; (focus (with_reducible apply (h.NewTerm); done)); clear h; intro h) | (apply stepWith heq; (focus (with_reducible apply (h.NewBlock); done)); clear h; intro h) | (apply stepWith heq; (focus (with_reducible apply (h.printfNoArguments); done)); clear h; intro h) | (apply stepWith heq; (focus (with_reducible apply (Grows.printfArguments ih h); done)); clear h; intro h) | (apply stepWith heq; (focus (with_reducible apply (h.printfCall); done)); clear h; intro h) | (apply stepWith heq; (focus (with_reducible apply (Grows.generateExitCall ih h); done)); clear h; intro h) | (apply stepWith heq; (focus (with_reducible apply (Grows.callArguments ih h); done)); clear h; intro h) | fail))
    | (cases e; first | done | exact h.ext | fail)
    | (dsimp only at e)
    | fail)

theorem ExprOK.functionLiteral (parameters : List String) {body : Option (List Statement)} (ihb : ∀ l, body = some l → ∀ s ∈ l, StmtOK s) :
    ExprOK (.FunctionLiteral parameters body) := by
  constructor
  intro a g x g' r _ h e
  replace h : Grows a x := h.ext
  rw [generateExpression_functionLiteral_eq] at e
  try simp only [IRGenerator.NewAlloca, IRGenerator.NewLoad, IRGenerator.NewBin, IRGenerator.NewICmp, IRGenerator.NewFCmp, IRGenerator.NewGetElementPtr, IRGenerator.funcValue, NewCall_func, IRGenerator.NewCall, IRGenerator.NewZExt, IRGenerator.NewSelect, IRGenerator.NewBr, IRGenerator.NewCondBr, IRGenerator.NewRet, IRGenerator.NewUnreachable, IRGenerator.NewFunc, IRGenerator.NewGlobalDef] at e
  repeat' (first
    | (first | (revert e; with_reducible apply (h.asResult); done) | (revert e; with_reducible apply (h.failWith); done) | (revert e; with_reducible apply (h.NewInst); done) | (revert e; with_reducible apply (h.NewStore); done) | (revert e; with_reducible apply (h.NewTerm); done) | (revert e; with_reducible apply (h.NewBlock); done) | (revert e; with_reducible apply (h.bindLiteralParameters); done) | (revert e; with_reducible apply (Grows.generateBlockStatement (ihb _ (by rfl)) h); done) | (revert e; with_reducible apply (h.implicitReturn); done) | fail)
    | (apply stepWith e; (focus (with_reducible apply (@ite_ok _ _ _ _ _ _); done)); intro e2
       clear e
       rcases e2 with ⟨_, e⟩ | ⟨_, e⟩)
    | (simp only [bind_assoc, pure_bind] at e)
    | (rw [bind_ok] at e
       obtain ⟨⟨x1, g1⟩, e1, e⟩ := e
       try dsimp only at e
       first
         | (apply stepWith e1; (focus (with_reducible apply (h.NewInst); done)); clear h; intro h) | (apply stepWith e1; (focus (with_reducible apply (h.NewStore); done)); clear h; intro h) | (apply stepWith e1; (focus (with_reducible apply (h.NewTerm); done)); clear h; intro h) | (apply stepWith e1; (focus (with_reducible apply (h.NewBlock); done)); clear h; intro h) | (apply stepWith e1; (focus (with_reducible apply (h.bindLiteralParameters); done)); clear h; intro h) | (apply stepWith e1; (focus (with_reducible apply (Grows.generateBlockStatement (ihb _ (by rfl)) h); done)); clear h; intro h) | (apply stepWith e1; (focus (with_reducible apply (h.implicitReturn); done)); clear h; intro h)
         | (cases e1)
         | (refine Grows.cut (b := g1) ?_ ?_ <;>
             first | (intro h2; clear h e1; rename' h2 => h) | (clear e; rename' e1 => e))
         | fail)
    | (split at e <;>
       try (rename_i heq
            first | (apply stepWith heq; (focus (with_reducible apply (h.NewInst); done)); clear h; intro h) | (apply stepWith heq; (focus (with_reducible apply (h.NewStore); done)); clear h; intro h) | (apply stepWith heq; (focus (with_reducible apply (h.NewTerm); done)); clear h; intro h) | (apply stepWith heq; (focus (with_reducible apply (h.NewBlock); done)); clear h; intro h) | (apply stepWith heq; (focus (with_reducible apply (h.bindLiteralParameters); done)); clear h; intro h) | (apply stepWith heq; (focus (with_reducible apply (Grows.generateBlockStatement (ihb _ (by rfl)) h); done)); clear h; intro h) | (apply stepWith heq; (focus (with_reducible apply (h.implicitReturn); done)); clear h; intro h) | fail))
    | (cases e; first | done | exact h.ext | fail)
    | (dsimp only at e)
    | fail)

theorem ExprOK.ifExpression {condition : Expression} {consequence alternative : Option (List Statement)} (ihc : ExprOK condition) (ih1 : ∀ l, consequence = some l → ∀ s ∈ l, StmtOK s)
    (ih2 : ∀ l, alternative = some l → ∀ s ∈ l, StmtOK s) :
    ExprOK (.IfExpression condition consequence alternative) := by
  constructor
  intro a g x g' r _ h e
  replace h : Grows a x := h.ext
  rw [generateExpression_ifExpression_eq] at e
  try simp only [IRGenerator.NewAlloca, IRGenerator.NewLoad, IRGenerator.NewBin, IRGenerator.NewICmp, IRGenerator.NewFCmp, IRGenerator.NewGetElementPtr, IRGenerator.funcValue, NewCall_func, IRGenerator.NewCall, IRGenerator.NewZExt, IRGenerator.NewSelect, IRGenerator.NewBr, IRGenerator.NewCondBr, IRGenerator.NewRet, IRGenerator.NewUnreachable, IRGenerator.NewFunc, IRGenerator.NewGlobalDef] at e
  repeat' (first
    | (first | (revert e; with_reducible apply (h.asResult); done) | (revert e; with_reducible apply (h.failWith); done) | (revert e; with_reducible apply (h.NewInst); done) | (revert e; with_reducible apply (h.NewStore); done) | (revert e; with_reducible apply (h.NewTerm); done) | (revert e; with_reducible apply (h.NewBlock); done) | (revert e; with_reducible apply (ihc.grows h); done) | (revert e; with_reducible apply (Grows.generateBlockStatement (ih1 _ (by rfl)) h); done) | (revert e; with_reducible apply (Grows.generateBlockStatement (ih2 _ (by rfl)) h); done) | (revert e; with_reducible apply (h.brIfOpen); done) | fail)
    | (apply stepWith e; (focus (with_reducible apply (@ite_ok _ _ _ _ _ _); done)); intro e2
       clear e
       rcases e2 with ⟨_, e⟩ | ⟨_, e⟩)
    | (simp only [bind_assoc, pure_bind] at e)
    | (rw [bind_ok] at e
       obtain ⟨⟨x1, g1⟩, e1, e⟩ := e
       try dsimp only at e
       first
         | (apply stepWith e1; (focus (with_reducible apply (h.NewInst); done)); clear h; intro h) | (apply stepWith e1; (focus (with_reducible apply (h.NewStore); done)); clear h; intro h) | (apply stepWith e1; (focus (with_reducible apply (h.NewTerm); done)); clear h; intro h) | (apply stepWith e1; (focus (with_reducible apply (h.NewBlock); done)); clear h; intro h) | (apply stepWith e1; (focus (with_reducible apply (ihc.grows h); done)); clear h; intro h) | (apply stepWith e1; (focus (with_reducible apply (Grows.generateBlockStatement (ih1 _ (by rfl)) h); done)); clear h; intro h) | (apply stepWith e1; (focus (with_reducible apply (Grows.generateBlockStatement (ih2 _ (by rfl)) h); done)); clear h; intro h) | (apply stepWith e1; (focus (with_reducible apply (h.brIfOpen); done)); clear h; intro h)
         | (cases e1)
         | (refine Grows.cut (b := g1) ?_ ?_ <;>
             first | (intro h2; clear h e1; rename' h2 => h) | (clear e; rename' e1 => e))
         | fail)
    | (split at e <;>
       try (rename_i heq
            first | (apply stepWith heq; (focus (with_reducible apply (h.NewInst); done)); clear h; intro h) | (apply stepWith heq; (focus (with_reducible apply (h.NewStore); done)); clear h; intro h) | (apply stepWith heq; (focus (with_reducible apply (h.NewTerm); done)); clear h; intro h) | (apply stepWith heq; (focus (with_reducible apply (h.NewBlock); done)); clear h; intro h) | (apply stepWith heq; (focus (with_reducible apply (ihc.grows h); done)); clear h; intro h) | (apply stepWith heq; (focus (with_reducible apply (Grows.generateBlockStatement (ih1 _ (by rfl)) h); done)); clear h; intro h) | (apply stepWith heq; (focus (with_reducible apply (Grows.generateBlockStatement (ih2 _ (by rfl)) h); done)); clear h; intro h) | (apply stepWith heq; (focus (with_reducible apply (h.brIfOpen); done)); clear h; intro h) | fail))
    | (cases e; first | done | exact h.ext | fail)
    | (dsimp only at e)
    | fail)

theorem ExprOK.arrayLiteral {elements : List Expression} (ih : ∀ e ∈ elements, ExprOK e) :
    ExprOK (.ArrayLiteral elements) := by
  constructor
  intro a g x g' r _ h e
  replace h : Grows a x := h.ext
  rw [generateExpression_arrayLiteral_eq] at e
  try simp only [IRGenerator.NewAlloca, IRGenerator.NewLoad, IRGenerator.NewBin, IRGenerator.NewICmp, IRGenerator.NewFCmp, IRGenerator.NewGetElementPtr, IRGenerator.funcValue, NewCall_func, IRGenerator.NewCall, IRGenerator.NewZExt, IRGenerator.NewSelect, IRGenerator.NewBr, IRGenerator.NewCondBr, IRGenerator.NewRet, IRGenerator.NewUnreachable, IRGenerator.NewFunc, IRGenerator.NewGlobalDef] at e
  repeat' (first
    | (first | (revert e; with_reducible apply (h.asResult); done) | (revert e; with_reducible apply (h.failWith); done) | (revert e; with_reducible apply (h.NewInst); done) | (revert e; with_reducible apply (h.NewStore); done) | (revert e; with_reducible apply (h.NewTerm); done) | (revert e; with_reducible apply (h.NewBlock); done) | (revert e; with_reducible apply ((ih _ (List.mem_cons_self _ _)).grows h); done) | (revert e; with_reducible apply (Grows.arrayElements ih h); done) | fail)
    | (apply stepWith e; (focus (with_reducible apply (@ite_ok _ _ _ _ _ _); done)); intro e2
       clear e
       rcases e2 with ⟨_, e⟩ | ⟨_, e⟩)
    | (simp only [bind_assoc, pure_bind] at e)
    | (rw [bind_ok] at e
       obtain ⟨⟨x1, g1⟩, e1, e⟩ := e
       try dsimp only at e
       first
         | (apply stepWith e1; (focus (with_reducible apply (h.NewInst); done)); clear h; intro h) | (apply stepWith e1; (focus (with_reducible apply (h.NewStore); done)); clear h; intro h) | (apply stepWith e1; (focus (with_reducible apply (h.NewTerm); done)); clear h; intro h) | (apply stepWith e1; (focus (with_reducible apply (h.NewBlock); done)); clear h; intro h) | (apply stepWith e1; (focus (with_reducible apply ((ih _ (List.mem_cons_self _ _)).grows h); done)); clear h; intro h) | (apply stepWith e1; (focus (with_reducible apply (Grows.arrayElements ih h); done)); clear h; intro h)
         | (cases e1)
         | (refine Grows.cut (b := g1) ?_ ?_ <;>
             first | (intro h2; clear h e1; rename' h2 => h) | (clear e; rename' e1 => e))
         | fail)
    | (split at e <;>
       try (rename_i heq
            first | (apply stepWith heq; (focus (with_reducible apply (h.NewInst); done)); clear h; intro h) | (apply stepWith heq; (focus (with_reducible apply (h.NewStore); done)); clear h; intro h) | (apply stepWith heq; (focus (with_reducible apply (h.NewTerm); done)); clear h; intro h) | (apply stepWith heq; (focus (with_reducible apply (h.NewBlock); done)); clear h; intro h) | (apply stepWith heq; (focus (with_reducible apply ((ih _ (List.mem_cons_self _ _)).grows h); done)); clear h; intro h) | (apply stepWith heq; (focus (with_reducible apply (Grows.arrayElements ih h); done)); clear h; intro h) | fail))
    | (cases e; first | done | exact h.ext | fail)
    | (dsimp only at e)
    | fail)

theorem ExprOK.indexExpression {left index : Expression} (ihl : ExprOK left) (ihi : ExprOK index) :
    ExprOK (.IndexExpression left index) := by
  constructor
  intro a g x g' r _ h e
  replace h : Grows a x := h.ext
  rw [generateExpression_indexExpression_eq] at e
  try simp only [IRGenerator.NewAlloca, IRGenerator.NewLoad, IRGenerator.NewBin, IRGenerator.NewICmp, IRGenerator.NewFCmp, IRGenerator.NewGetElementPtr, IRGenerator.funcValue, NewCall_func, IRGenerator.NewCall, IRGenerator.NewZExt, IRGenerator.NewSelect, IRGenerator.NewBr, IRGenerator.NewCondBr, IRGenerator.NewRet, IRGenerator.NewUnreachable, IRGenerator.NewFunc, IRGenerator.NewGlobalDef] at e
  repeat' (first
    | (first | (revert e; with_reducible apply (h.asResult); done) | (revert e; with_reducible apply (h.failWith); done) | (revert e; with_reducible apply (h.NewInst); done) | (revert e; with_reducible apply (h.NewStore); done) | (revert e; with_reducible apply (h.NewTerm); done) | (revert e; with_reducible apply (h.NewBlock); done) | (revert e; with_reducible apply (ihl.grows h); done) | (revert e; with_reducible apply (ihi.grows h); done) | (revert e; with_reducible apply (h.indexAccess); done) | fail)
    | (apply stepWith e; (focus (with_reducible apply (@ite_ok _ _ _ _ _ _); done)); intro e2
       clear e
       rcases e2 with ⟨_, e⟩ | ⟨_, e⟩)
    | (simp only [bind_assoc, pure_bind] at e)
    | (rw [bind_ok] at e
       obtain ⟨⟨x1, g1⟩, e1, e⟩ := e
       try dsimp only at e
       first
         | (apply stepWith e1; (focus (with_reducible apply (h.NewInst); done)); clear h; intro h) | (apply stepWith e1; (focus (with_reducible apply (h.NewStore); done)); clear h; intro h) | (apply stepWith e1; (focus (with_reducible apply (h.NewTerm); done)); clear h; intro h) | (apply stepWith e1; (focus (with_reducible apply (h.NewBlock); done)); clear h; intro h) | (apply stepWith e1; (focus (with_reducible apply (ihl.grows h); done)); clear h; intro h) | (apply stepWith e1; (focus (with_reducible apply (ihi.grows h); done)); clear h; intro h) | (apply stepWith e1; (focus (with_reducible apply (h.indexAccess); done)); clear h; intro h)
         | (cases e1)
         | (refine Grows.cut (b := g1) ?_ ?_ <;>
             first | (intro h2; clear h e1; rename' h2 => h) | (clear e; rename' e1 => e))
         | fail)
    | (split at e <;>
       try (rename_i heq
            first | (apply stepWith heq; (focus (with_reducible apply (h.NewInst); done)); clear h; intro h) | (apply stepWith heq; (focus (with_reducible apply (h.NewStore); done)); clear h; intro h) | (apply stepWith heq; (focus (with_reducible apply (h.NewTerm); done)); clear h; intro h) | (apply stepWith heq; (focus (with_reducible apply (h.NewBlock); done)); clear h; intro h) | (apply stepWith heq; (focus (with_reducible apply (ihl.grows h); done)); clear h; intro h) | (apply stepWith heq; (focus (with_reducible apply (ihi.grows h); done)); clear h; intro h) | (apply stepWith heq; (focus (with_reducible apply (h.indexAccess); done)); clear h; intro h) | fail))
    | (cases e; first | done | exact h.ext | fail)
    | (dsimp only at e)
    | fail)

theorem ExprOK.arrayType (size : Option Expression) (elementType : Expression) :
    ExprOK (.ArrayType size elementType) := by
  constructor
  intro a g x g' r _ h e
  replace h : Grows a x := h.ext
  rw [generateExpression_arrayType_eq] at e
  try simp only [IRGenerator.NewAlloca, IRGenerator.NewLoad, IRGenerator.NewBin, IRGenerator.NewICmp, IRGenerator.NewFCmp, IRGenerator.NewGetElementPtr, IRGenerator.funcValue, NewCall_func, IRGenerator.NewCall, IRGenerator.NewZExt, IRGenerator.NewSelect, IRGenerator.NewBr, IRGenerator.NewCondBr, IRGenerator.NewRet, IRGenerator.NewUnreachable, IRGenerator.NewFunc, IRGenerator.NewGlobalDef] at e
  repeat' (first
    | (first | (revert e; with_reducible apply (h.asResult); done) | (revert e; with_reducible apply (h.failWith); done) | (revert e; with_reducible apply (h.NewInst); done) | (revert e; with_reducible apply (h.NewStore); done) | (revert e; with_reducible apply (h.NewTerm); done) | (revert e; with_reducible apply (h.NewBlock); done) | fail)
    | (apply stepWith e; (focus (with_reducible apply (@ite_ok _ _ _ _ _ _); done)); intro e2
       clear e
       rcases e2 with ⟨_, e⟩ | ⟨_, e⟩)
    | (simp only [bind_assoc, pure_bind] at e)
    | (rw [bind_ok] at e
       obtain ⟨⟨x1, g1⟩, e1, e⟩ := e
       try dsimp only at e
       first
         | (apply stepWith e1; (focus (with_reducible apply (h.NewInst); done)); clear h; intro h) | (apply stepWith e1; (focus (with_reducible apply (h.NewStore); done)); clear h; intro h) | (apply stepWith e1; (focus (with_reducible apply (h.NewTerm); done)); clear h; intro h) | (apply stepWith e1; (focus (with_reducible apply (h.NewBlock); done)); clear h; intro h)
         | (cases e1)
         | (refine Grows.cut (b := g1) ?_ ?_ <;>
             first | (intro h2; clear h e1; rename' h2 => h) | (clear e; rename' e1 => e))
         | fail)
    | (split at e <;>
       try (rename_i heq
            first | (apply stepWith heq; (focus (with_reducible apply (h.NewInst); done)); clear h; intro h) | (apply stepWith heq; (focus (with_reducible apply (h.NewStore); done)); clear h; intro h) | (apply stepWith heq; (focus (with_reducible apply (h.NewTerm); done)); clear h; intro h) | (apply stepWith heq; (focus (with_reducible apply (h.NewBlock); done)); clear h; intro h) | fail))
    | (cases e; first | done | exact h.ext | fail)
    | (dsimp only at e)
    | fail)

theorem ExprOK.other (t : String) :
    ExprOK (.Other t) := by
  constructor
  intro a g x g' r _ h e
  replace h : Grows a x := h.ext
  rw [generateExpression_other_eq] at e
  try simp only [IRGenerator.NewAlloca, IRGenerator.NewLoad, IRGenerator.NewBin, IRGenerator.NewICmp, IRGenerator.NewFCmp, IRGenerator.NewGetElementPtr, IRGenerator.funcValue, NewCall_func, IRGenerator.NewCall, IRGenerator.NewZExt, IRGenerator.NewSelect, IRGenerator.NewBr, IRGenerator.NewCondBr, IRGenerator.NewRet, IRGenerator.NewUnreachable, IRGenerator.NewFunc, IRGenerator.NewGlobalDef] at e
  repeat' (first
    | (first | (revert e; with_reducible apply (h.asResult); done) | (revert e; with_reducible apply (h.failWith); done) | (revert e; with_reducible apply (h.NewInst); done) | (revert e; with_reducible apply (h.NewStore); done) | (revert e; with_reducible apply (h.NewTerm); done) | (revert e; with_reducible apply (h.NewBlock); done) | fail)
    | (apply stepWith e; (focus (with_reducible apply (@ite_ok _ _ _ _ _ _); done)); intro e2
       clear e
       rcases e2 with ⟨_, e⟩ | ⟨_, e⟩)
    | (simp only [bind_assoc, pure_bind] at e)
    | (rw [bind_ok] at e
       obtain ⟨⟨x1, g1⟩, e1, e⟩ := e
       try dsimp only at e
       first
         | (apply stepWith e1; (focus (with_reducible apply (h.NewInst); done)); clear h; intro h) | (apply stepWith e1; (focus (with_reducible apply (h.NewStore); done)); clear h; intro h) | (apply stepWith e1; (focus (with_reducible apply (h.NewTerm); done)); clear h; intro h) | (apply stepWith e1; (focus (with_reducible apply (h.NewBlock); done)); clear h; intro h)
         | (cases e1)
         | (refine Grows.cut (b := g1) ?_ ?_ <;>
             first | (intro h2; clear h e1; rename' h2 => h) | (clear e; rename' e1 => e))
         | fail)
    | (split at e <;>
       try (rename_i heq
            first | (apply stepWith heq; (focus (with_reducible apply (h.NewInst); done)); clear h; intro h) | (apply stepWith heq; (focus (with_reducible apply (h.NewStore); done)); clear h; intro h) | (apply stepWith heq; (focus (with_reducible apply (h.NewTerm); done)); clear h; intro h) | (apply stepWith heq; (focus (with_reducible apply (h.NewBlock); done)); clear h; intro h) | fail))
    | (cases e; first | done | exact h.ext | fail)
    | (dsimp only at e)
    | fail)

theorem StmtOK.package (name : String) :
    StmtOK (.PackageStatement name) := by
  constructor
  intro a g x g' r _ h e
  replace h : Grows a x := h.ext
  rw [generateStatement_package_eq] at e
  try simp only [IRGenerator.NewAlloca, IRGenerator.NewLoad, IRGenerator.NewBin, IRGenerator.NewICmp, IRGenerator.NewFCmp, IRGenerator.NewGetElementPtr, IRGenerator.funcValue, NewCall_func, IRGenerator.NewCall, IRGenerator.NewZExt, IRGenerator.NewSelect, IRGenerator.NewBr, IRGenerator.NewCondBr, IRGenerator.NewRet, IRGenerator.NewUnreachable, IRGenerator.NewFunc, IRGenerator.NewGlobalDef] at e
  repeat' (first
    | (first | (revert e; with_reducible apply (h.asResult); done) | (revert e; with_reducible apply (h.failWith); done) | (revert e; with_reducible apply (h.NewInst); done) | (revert e; with_reducible apply (h.NewStore); done) | (revert e; with_reducible apply (h.NewTerm); done) | (revert e; with_reducible apply (h.NewBlock); done) | fail)
    | (apply stepWith e; (focus (with_reducible apply (@ite_ok _ _ _ _ _ _); done)); intro e2
       clear e
       rcases e2 with ⟨_, e⟩ | ⟨_, e⟩)
    | (simp only [bind_assoc, pure_bind] at e)
    | (rw [bind_ok] at e
       obtain ⟨⟨x1, g1⟩, e1, e⟩ := e
       try dsimp only at e
       first
         | (apply stepWith e1; (focus (with_reducible apply (h.NewInst); done)); clear h; intro h) | (apply stepWith e1; (focus (with_reducible apply (h.NewStore); done)); clear h; intro h) | (apply stepWith e1; (focus (with_reducible apply (h.NewTerm); done)); clear h; intro h) | (apply stepWith e1; (focus (with_reducible apply (h.NewBlock); done)); clear h; intro h)
         | (cases e1)
         | (refine Grows.cut (b := g1) ?_ ?_ <;>
             first | (intro h2; clear h e1; rename' h2 => h) | (clear e; rename' e1 => e))
         | fail)
    | (split at e <;>
       try (rename_i heq
            first | (apply stepWith heq; (focus (with_reducible apply (h.NewInst); done)); clear h; intro h) | (apply stepWith heq; (focus (with_reducible apply (h.NewStore); done)); clear h; intro h) | (apply stepWith heq; (focus (with_reducible apply (h.NewTerm); done)); clear h; intro h) | (apply stepWith heq; (focus (with_reducible apply (h.NewBlock); done)); clear h; intro h) | fail))
    | (cases e; first | done | exact h.ext | fail)
    | (dsimp only at e)
    | fail)

theorem StmtOK.importStatement  :
    StmtOK (.ImportStatement) := by
  constructor
  intro a g x g' r _ h e
  replace h : Grows a x := h.ext
  rw [generateStatement_importStatement_eq] at e
  try simp only [IRGenerator.NewAlloca, IRGenerator.NewLoad, IRGenerator.NewBin, IRGenerator.NewICmp, IRGenerator.NewFCmp, IRGenerator.NewGetElementPtr, IRGenerator.funcValue, NewCall_func, IRGenerator.NewCall, IRGenerator.NewZExt, IRGenerator.NewSelect, IRGenerator.NewBr, IRGenerator.NewCondBr, IRGenerator.NewRet, IRGenerator.NewUnreachable, IRGenerator.NewFunc, IRGenerator.NewGlobalDef] at e
  repeat' (first
    | (first | (revert e; with_reducible apply (h.asResult); done) | (revert e; with_reducible apply (h.failWith); done) | (revert e; with_reducible apply (h.NewInst); done) | (revert e; with_reducible apply (h.NewStore); done) | (revert e; with_reducible apply (h.NewTerm); done) | (revert e; with_reducible apply (h.NewBlock); done) | fail)
    | (apply stepWith e; (focus (with_reducible apply (@ite_ok _ _ _ _ _ _); done)); intro e2
       clear e
       rcases e2 with ⟨_, e⟩ | ⟨_, e⟩)
    | (simp only [bind_assoc, pure_bind] at e)
    | (rw [bind_ok] at e
       obtain ⟨⟨x1, g1⟩, e1, e⟩ := e
       try dsimp only at e
       first
         | (apply stepWith e1; (focus (with_reducible apply (h.NewInst); done)); clear h; intro h) | (apply stepWith e1; (focus (with_reducible apply (h.NewStore); done)); clear h; intro h) | (apply stepWith e1; (focus (with_reducible apply (h.NewTerm); done)); clear h; intro h) | (apply stepWith e1; (focus (with_reducible apply (h.NewBlock); done)); clear h; intro h)
         | (cases e1)
         | (refine Grows.cut (b := g1) ?_ ?_ <;>
             first | (intro h2; clear h e1; rename' h2 => h) | (clear e; rename' e1 => e))
         | fail)
    | (split at e <;>
       try (rename_i heq
            first | (apply stepWith heq; (focus (with_reducible apply (h.NewInst); done)); clear h; intro h) | (apply stepWith heq; (focus (with_reducible apply (h.NewStore); done)); clear h; intro h) | (apply stepWith heq; (focus (with_reducible apply (h.NewTerm); done)); clear h; intro h) | (apply stepWith heq; (focus (with_reducible apply (h.NewBlock); done)); clear h; intro h) | fail))
    | (cases e; first | done | exact h.ext | fail)
    | (dsimp only at e)
    | fail)

theorem StmtOK.expression {ex : Expression} (ih : ExprOK ex) :
    StmtOK (.ExpressionStatement ex) := by
  constructor
  intro a g x g' r _ h e
  replace h : Grows a x := h.ext
  rw [generateStatement_expression_eq] at e
  try simp only [IRGenerator.NewAlloca, IRGenerator.NewLoad, IRGenerator.NewBin, IRGenerator.NewICmp, IRGenerator.NewFCmp, IRGenerator.NewGetElementPtr, IRGenerator.funcValue, NewCall_func, IRGenerator.NewCall, IRGenerator.NewZExt, IRGenerator.NewSelect, IRGenerator.NewBr, IRGenerator.NewCondBr, IRGenerator.NewRet, IRGenerator.NewUnreachable, IRGenerator.NewFunc, IRGenerator.NewGlobalDef] at e
  repeat' (first
    | (first | (revert e; with_reducible apply (h.asResult); done) | (revert e; with_reducible apply (h.failWith); done) | (revert e; with_reducible apply (h.NewInst); done) | (revert e; with_reducible apply (h.NewStore); done) | (revert e; with_reducible apply (h.NewTerm); done) | (revert e; with_reducible apply (h.NewBlock); done) | (revert e; with_reducible apply (ih.grows h); done) | fail)
    | (apply stepWith e; (focus (with_reducible apply (@ite_ok _ _ _ _ _ _); done)); intro e2
       clear e
       rcases e2 with ⟨_, e⟩ | ⟨_, e⟩)
    | (simp only [bind_assoc, pure_bind] at e)
    | (rw [bind_ok] at e
       obtain ⟨⟨x1, g1⟩, e1, e⟩ := e
       try dsimp only at e
       first
         | (apply stepWith e1; (focus (with_reducible apply (h.NewInst); done)); clear h; intro h) | (apply stepWith e1; (focus (with_reducible apply (h.NewStore); done)); clear h; intro h) | (apply stepWith e1; (focus (with_reducible apply (h.NewTerm); done)); clear h; intro h) | (apply stepWith e1; (focus (with_reducible apply (h.NewBlock); done)); clear h; intro h) | (apply stepWith e1; (focus (with_reducible apply (ih.grows h); done)); clear h; intro h)
         | (cases e1)
         | (refine Grows.cut (b := g1) ?_ ?_ <;>
             first | (intro h2; clear h e1; rename' h2 => h) | (clear e; rename' e1 => e))
         | fail)
    | (split at e <;>
       try (rename_i heq
            first | (apply stepWith heq; (focus (with_reducible apply (h.NewInst); done)); clear h; intro h) | (apply stepWith heq; (focus (with_reducible apply (h.NewStore); done)); clear h; intro h) | (apply stepWith heq; (focus (with_reducible apply (h.NewTerm); done)); clear h; intro h) | (apply stepWith heq; (focus (with_reducible apply (h.NewBlock); done)); clear h; intro h) | (apply stepWith heq; (focus (with_reducible apply (ih.grows h); done)); clear h; intro h) | fail))
    | (cases e; first | done | exact h.ext | fail)
    | (dsimp only at e)
    | fail)

theorem StmtOK.var (varName : String) (type : Option Expression) {value : Option Expression} (ihv : ∀ v, value = some v → ExprOK v) :
    StmtOK (.VarStatement varName type value) := by
  constructor
  intro a g x g' r _ h e
  replace h : Grows a x := h.ext
  rw [generateStatement_var_eq] at e
  try simp only [IRGenerator.NewAlloca, IRGenerator.NewLoad, IRGenerator.NewBin, IRGenerator.NewICmp, IRGenerator.NewFCmp, IRGenerator.NewGetElementPtr, IRGenerator.funcValue, NewCall_func, IRGenerator.NewCall, IRGenerator.NewZExt, IRGenerator.NewSelect, IRGenerator.NewBr, IRGenerator.NewCondBr, IRGenerator.NewRet, IRGenerator.NewUnreachable, IRGenerator.NewFunc, IRGenerator.NewGlobalDef] at e
  repeat' (first
    | (first | (revert e; with_reducible apply (h.asResult); done) | (revert e; with_reducible apply (h.failWith); done) | (revert e; with_reducible apply (h.NewInst); done) | (revert e; with_reducible apply (h.NewStore); done) | (revert e; with_reducible apply (h.NewTerm); done) | (revert e; with_reducible apply (h.NewBlock); done) | (revert e; with_reducible apply ((ihv _ (by rfl)).grows h); done) | fail)
    | (apply stepWith e; (focus (with_reducible apply (@ite_ok _ _ _ _ _ _); done)); intro e2
       clear e
       rcases e2 with ⟨_, e⟩ | ⟨_, e⟩)
    | (simp only [bind_assoc, pure_bind] at e)
    | (rw [bind_ok] at e
       obtain ⟨⟨x1, g1⟩, e1, e⟩ := e
       try dsimp only at e
       first
         | (apply stepWith e1; (focus (with_reducible apply (h.NewInst); done)); clear h; intro h) | (apply stepWith e1; (focus (with_reducible apply (h.NewStore); done)); clear h; intro h) | (apply stepWith e1; (focus (with_reducible apply (h.NewTerm); done)); clear h; intro h) | (apply stepWith e1; (focus (with_reducible apply (h.NewBlock); done)); clear h; intro h) | (apply stepWith e1; (focus (with_reducible apply ((ihv _ (by rfl)).grows h); done)); clear h; intro h)
         | (cases e1)
         | (refine Grows.cut (b := g1) ?_ ?_ <;>
             first | (intro h2; clear h e1; rename' h2 => h) | (clear e; rename' e1 => e))
         | fail)
    | (split at e <;>
       try (rename_i heq
            first | (apply stepWith heq; (focus (with_reducible apply (h.varStatementType); done)); clear h; intro h) | (apply stepWith heq; (focus (with_reducible apply (h.NewInst); done)); clear h; intro h) | (apply stepWith heq; (focus (with_reducible apply (h.NewStore); done)); clear h; intro h) | (apply stepWith heq; (focus (with_reducible apply (h.NewTerm); done)); clear h; intro h) | (apply stepWith heq; (focus (with_reducible apply (h.NewBlock); done)); clear h; intro h) | (apply stepWith heq; (focus (with_reducible apply ((ihv _ (by rfl)).grows h); done)); clear h; intro h) | fail))
    | (cases e; first | done | exact h.ext | fail)
    | (dsimp only at e)
    | fail)

theorem StmtOK.returnStatement {returnValue : Option Expression} (ihv : ∀ v, returnValue = some v → ExprOK v) :
    StmtOK (.ReturnStatement returnValue) := by
  constructor
  intro a g x g' r _ h e
  replace h : Grows a x := h.ext
  rw [generateStatement_return_eq] at e
  try simp only [IRGenerator.NewAlloca, IRGenerator.NewLoad, IRGenerator.NewBin, IRGenerator.NewICmp, IRGenerator.NewFCmp, IRGenerator.NewGetElementPtr, IRGenerator.funcValue, NewCall_func, IRGenerator.NewCall, IRGenerator.NewZExt, IRGenerator.NewSelect, IRGenerator.NewBr, IRGenerator.NewCondBr, IRGenerator.NewRet, IRGenerator.NewUnreachable, IRGenerator.NewFunc, IRGenerator.NewGlobalDef] at e
  repeat' (first
    | (first | (revert e; with_reducible apply (h.asResult); done) | (revert e; with_reducible apply (h.failWith); done) | (revert e; with_reducible apply (h.NewInst); done) | (revert e; with_reducible apply (h.NewStore); done) | (revert e; with_reducible apply (h.NewTerm); done) | (revert e; with_reducible apply (h.NewBlock); done) | (revert e; with_reducible apply ((ihv _ (by rfl)).grows h); done) | fail)
    | (apply stepWith e; (focus (with_reducible apply (@ite_ok _ _ _ _ _ _); done)); intro e2
       clear e
       rcases e2 with ⟨_, e⟩ | ⟨_, e⟩)
    | (simp only [bind_assoc, pure_bind] at e)
    | (rw [bind_ok] at e
       obtain ⟨⟨x1, g1⟩, e1, e⟩ := e
       try dsimp only at e
       first
         | (apply stepWith e1; (focus (with_reducible apply (h.NewInst); done)); clear h; intro h) | (apply stepWith e1; (focus (with_reducible apply (h.NewStore); done)); clear h; intro h) | (apply stepWith e1; (focus (with_reducible apply (h.NewTerm); done)); clear h; intro h) | (apply stepWith e1; (focus (with_reducible apply (h.NewBlock); done)); clear h; intro h) | (apply stepWith e1; (focus (with_reducible apply ((ihv _ (by rfl)).grows h); done)); clear h; intro h)
         | (cases e1)
         | (refine Grows.cut (b := g1) ?_ ?_ <;>
             first | (intro h2; clear h e1; rename' h2 => h) | (clear e; rename' e1 => e))
         | fail)
    | (split at e <;>
       try (rename_i heq
            first | (apply stepWith heq; (focus (with_reducible apply (h.NewInst); done)); clear h; intro h) | (apply stepWith heq; (focus (with_reducible apply (h.NewStore); done)); clear h; intro h) | (apply stepWith heq; (focus (with_reducible apply (h.NewTerm); done)); clear h; intro h) | (apply stepWith heq; (focus (with_reducible apply (h.NewBlock); done)); clear h; intro h) | (apply stepWith heq; (focus (with_reducible apply ((ihv _ (by rfl)).grows h); done)); clear h; intro h) | fail))
    | (cases e; first | done | exact h.ext | fail)
    | (dsimp only at e)
    | fail)

theorem StmtOK.block {statements : List Statement} (ih : ∀ s ∈ statements, StmtOK s) :
    StmtOK (.BlockStatement statements) := by
  constructor
  intro a g x g' r _ h e
  replace h : Grows a x := h.ext
  rw [generateStatement_block_eq] at e
  try simp only [IRGenerator.NewAlloca, IRGenerator.NewLoad, IRGenerator.NewBin, IRGenerator.NewICmp, IRGenerator.NewFCmp, IRGenerator.NewGetElementPtr, IRGenerator.funcValue, NewCall_func, IRGenerator.NewCall, IRGenerator.NewZExt, IRGenerator.NewSelect, IRGenerator.NewBr, IRGenerator.NewCondBr, IRGenerator.NewRet, IRGenerator.NewUnreachable, IRGenerator.NewFunc, IRGenerator.NewGlobalDef] at e
  repeat' (first
    | (first | (revert e; with_reducible apply (h.asResult); done) | (revert e; with_reducible apply (h.failWith); done) | (revert e; with_reducible apply (h.NewInst); done) | (revert e; with_reducible apply (h.NewStore); done) | (revert e; with_reducible apply (h.NewTerm); done) | (revert e; with_reducible apply (h.NewBlock); done) | (revert e; with_reducible apply (Grows.generateBlockStatement ih h); done) | fail)
    | (apply stepWith e; (focus (with_reducible apply (@ite_ok _ _ _ _ _ _); done)); intro e2
       clear e
       rcases e2 with ⟨_, e⟩ | ⟨_, e⟩)
    | (simp only [bind_assoc, pure_bind] at e)
    | (rw [bind_ok] at e
       obtain ⟨⟨x1, g1⟩, e1, e⟩ := e
       try dsimp only at e
       first
         | (apply stepWith e1; (focus (with_reducible apply (h.NewInst); done)); clear h; intro h) | (apply stepWith e1; (focus (with_reducible apply (h.NewStore); done)); clear h; intro h) | (apply stepWith e1; (focus (with_reducible apply (h.NewTerm); done)); clear h; intro h) | (apply stepWith e1; (focus (with_reducible apply (h.NewBlock); done)); clear h; intro h) | (apply stepWith e1; (focus (with_reducible apply (Grows.generateBlockStatement ih h); done)); clear h; intro h)
         | (cases e1)
         | (refine Grows.cut (b := g1) ?_ ?_ <;>
             first | (intro h2; clear h e1; rename' h2 => h) | (clear e; rename' e1 => e))
         | fail)
    | (split at e <;>
       try (rename_i heq
            first | (apply stepWith heq; (focus (with_reducible apply (h.NewInst); done)); clear h; intro h) | (apply stepWith heq; (focus (with_reducible apply (h.NewStore); done)); clear h; intro h) | (apply stepWith heq; (focus (with_reducible apply (h.NewTerm); done)); clear h; intro h) | (apply stepWith heq; (focus (with_reducible apply (h.NewBlock); done)); clear h; intro h) | (apply stepWith heq; (focus (with_reducible apply (Grows.generateBlockStatement ih h); done)); clear h; intro h) | fail))
    | (cases e; first | done | exact h.ext | fail)
    | (dsimp only at e)
    | fail)

theorem StmtOK.whileStatement {condition : Expression} {body : Option (List Statement)} (ihc : ExprOK condition) (ihb : ∀ l, body = some l → ∀ s ∈ l, StmtOK s) :
    StmtOK (.WhileStatement condition body) := by
  constructor
  intro a g x g' r _ h e
  replace h : Grows a x := h.ext
  rw [generateStatement_while_eq] at e
  try simp only [IRGenerator.NewAlloca, IRGenerator.NewLoad, IRGenerator.NewBin, IRGenerator.NewICmp, IRGenerator.NewFCmp, IRGenerator.NewGetElementPtr, IRGenerator.funcValue, NewCall_func, IRGenerator.NewCall, IRGenerator.NewZExt, IRGenerator.NewSelect, IRGenerator.NewBr, IRGenerator.NewCondBr, IRGenerator.NewRet, IRGenerator.NewUnreachable, IRGenerator.NewFunc, IRGenerator.NewGlobalDef] at e
  repeat' (first
    | (first | (revert e; with_reducible apply (h.asResult); done) | (revert e; with_reducible apply (h.failWith); done) | (revert e; with_reducible apply (h.NewInst); done) | (revert e; with_reducible apply (h.NewStore); done) | (revert e; with_reducible apply (h.NewTerm); done) | (revert e; with_reducible apply (h.NewBlock); done) | (revert e; with_reducible apply (ihc.grows h); done) | (revert e; with_reducible apply (Grows.generateBlockStatement (ihb _ (by rfl)) h); done) | (revert e; with_reducible apply (h.brIfOpen); done) | fail)
    | (apply stepWith e; (focus (with_reducible apply (@ite_ok _ _ _ _ _ _); done)); intro e2
       clear e
       rcases e2 with ⟨_, e⟩ | ⟨_, e⟩)
    | (simp only [bind_assoc, pure_bind] at e)
    | (rw [bind_ok] at e
       obtain ⟨⟨x1, g1⟩, e1, e⟩ := e
       try dsimp only at e
       first
         | (apply stepWith e1; (focus (with_reducible apply (h.NewInst); done)); clear h; intro h) | (apply stepWith e1; (focus (with_reducible apply (h.NewStore); done)); clear h; intro h) | (apply stepWith e1; (focus (with_reducible apply (h.NewTerm); done)); clear h; intro h) | (apply stepWith e1; (focus (with_reducible apply (h.NewBlock); done)); clear h; intro h) | (apply stepWith e1; (focus (with_reducible apply (ihc.grows h); done)); clear h; intro h) | (apply stepWith e1; (focus (with_reducible apply (Grows.generateBlockStatement (ihb _ (by rfl)) h); done)); clear h; intro h) | (apply stepWith e1; (focus (with_reducible apply (h.brIfOpen); done)); clear h; intro h)
         | (cases e1)
         | (refine Grows.cut (b := g1) ?_ ?_ <;>
             first | (intro h2; clear h e1; rename' h2 => h) | (clear e; rename' e1 => e))
         | fail)
    | (split at e <;>
       try (rename_i heq
            first | (apply stepWith heq; (focus (with_reducible apply (h.NewInst); done)); clear h; intro h) | (apply stepWith heq; (focus (with_reducible apply (h.NewStore); done)); clear h; intro h) | (apply stepWith heq; (focus (with_reducible apply (h.NewTerm); done)); clear h; intro h) | (apply stepWith heq; (focus (with_reducible apply (h.NewBlock); done)); clear h; intro h) | (apply stepWith heq; (focus (with_reducible apply (ihc.grows h); done)); clear h; intro h) | (apply stepWith heq; (focus (with_reducible apply (Grows.generateBlockStatement (ihb _ (by rfl)) h); done)); clear h; intro h) | (apply stepWith heq; (focus (with_reducible apply (h.brIfOpen); done)); clear h; intro h) | fail))
    | (cases e; first | done | exact h.ext | fail)
    | (dsimp only at e)
    | fail)

set_option maxHeartbeats 1600000 in
theorem StmtOK.forStatement {init : Option Statement} {condition : Option Expression}
    {post : Option Statement} {body : Option (List Statement)} (ihi : ∀ s, init = some s → StmtOK s)
    (ihc : ∀ c, condition = some c → ExprOK c) (ihp : ∀ s, post = some s → StmtOK s)
    (ihb : ∀ l, body = some l → ∀ s ∈ l, StmtOK s) :
    StmtOK (.ForStatement init condition post body) := by
  constructor
  intro a g x g' r _ h e
  replace h : Grows a x := h.ext
  rw [generateStatement_for_eq] at e
  try simp only [IRGenerator.NewAlloca, IRGenerator.NewLoad, IRGenerator.NewBin, IRGenerator.NewICmp, IRGenerator.NewFCmp, IRGenerator.NewGetElementPtr, IRGenerator.funcValue, NewCall_func, IRGenerator.NewCall, IRGenerator.NewZExt, IRGenerator.NewSelect, IRGenerator.NewBr, IRGenerator.NewCondBr, IRGenerator.NewRet, IRGenerator.NewUnreachable, IRGenerator.NewFunc, IRGenerator.NewGlobalDef] at e
  repeat' (first
    | (first | (revert e; with_reducible apply (h.asResult); done) | (revert e; with_reducible apply (h.failWith); done) | (revert e; with_reducible apply (h.NewInst); done) | (revert e; with_reducible apply (h.NewStore); done) | (revert e; with_reducible apply (h.NewTerm); done) | (revert e; with_reducible apply (h.NewBlock); done) | (revert e; with_reducible apply ((ihi _ (by rfl)).grows h); done) | (revert e; with_reducible apply ((ihc _ (by rfl)).grows h); done) | (revert e; with_reducible apply ((ihp _ (by rfl)).grows h); done) | (revert e; with_reducible apply (Grows.generateBlockStatement (ihb _ (by rfl)) h); done) | (revert e; with_reducible apply (h.brIfOpen); done) | fail)
    | (apply stepWith e; (focus (with_reducible apply (@ite_ok _ _ _ _ _ _); done)); intro e2
       clear e
       rcases e2 with ⟨_, e⟩ | ⟨_, e⟩)
    | (simp only [bind_assoc, pure_bind] at e)
    | (rw [bind_ok] at e
       obtain ⟨⟨x1, g1⟩, e1, e⟩ := e
       try dsimp only at e
       first
         | (apply stepWith e1; (focus (with_reducible apply (h.NewInst); done)); clear h; intro h) | (apply stepWith e1; (focus (with_reducible apply (h.NewStore); done)); clear h; intro h) | (apply stepWith e1; (focus (with_reducible apply (h.NewTerm); done)); clear h; intro h) | (apply stepWith e1; (focus (with_reducible apply (h.NewBlock); done)); clear h; intro h) | (apply stepWith e1; (focus (with_reducible apply ((ihi _ (by rfl)).grows h); done)); clear h; intro h) | (apply stepWith e1; (focus (with_reducible apply ((ihc _ (by rfl)).grows h); done)); clear h; intro h) | (apply stepWith e1; (focus (with_reducible apply ((ihp _ (by rfl)).grows h); done)); clear h; intro h) | (apply stepWith e1; (focus (with_reducible apply (Grows.generateBlockStatement (ihb _ (by rfl)) h); done)); clear h; intro h) | (apply stepWith e1; (focus (with_reducible apply (h.brIfOpen); done)); clear h; intro h)
         | (cases e1)
         | (refine Grows.cut (b := g1) ?_ ?_ <;>
             first | (intro h2; clear h e1; rename' h2 => h) | (clear e; rename' e1 => e))
         | fail)
    | (split at e <;>
       try (rename_i heq
            first | (apply stepWith heq; (focus (with_reducible apply (h.NewInst); done)); clear h; intro h) | (apply stepWith heq; (focus (with_reducible apply (h.NewStore); done)); clear h; intro h) | (apply stepWith heq; (focus (with_reducible apply (h.NewTerm); done)); clear h; intro h) | (apply stepWith heq; (focus (with_reducible apply (h.NewBlock); done)); clear h; intro h) | (apply stepWith heq; (focus (with_reducible apply ((ihi _ (by rfl)).grows h); done)); clear h; intro h) | (apply stepWith heq; (focus (with_reducible apply ((ihc _ (by rfl)).grows h); done)); clear h; intro h) | (apply stepWith heq; (focus (with_reducible apply ((ihp _ (by rfl)).grows h); done)); clear h; intro h) | (apply stepWith heq; (focus (with_reducible apply (Grows.generateBlockStatement (ihb _ (by rfl)) h); done)); clear h; intro h) | (apply stepWith heq; (focus (with_reducible apply (h.brIfOpen); done)); clear h; intro h) | fail))
    | (cases e; first | done | exact h.ext | fail)
    | (dsimp only at e)
    | fail)

theorem StmtOK.switchStatement {tag : Option Expression} {cases : List CaseClause} (iht : ∀ t, tag = some t → ExprOK t)
    (ihv : ∀ c ∈ cases, ∀ e ∈ c.values, ExprOK e) (ihb : ∀ c ∈ cases, ∀ s ∈ c.body, StmtOK s) :
    StmtOK (.SwitchStatement tag cases) := by
  constructor
  intro a g x g' r _ h e
  replace h : Grows a x := h.ext
  rw [generateStatement_switch_eq] at e
  try simp only [IRGenerator.NewAlloca, IRGenerator.NewLoad, IRGenerator.NewBin, IRGenerator.NewICmp, IRGenerator.NewFCmp, IRGenerator.NewGetElementPtr, IRGenerator.funcValue, NewCall_func, IRGenerator.NewCall, IRGenerator.NewZExt, IRGenerator.NewSelect, IRGenerator.NewBr, IRGenerator.NewCondBr, IRGenerator.NewRet, IRGenerator.NewUnreachable, IRGenerator.NewFunc, IRGenerator.NewGlobalDef] at e
  repeat' (first
    | (first | (revert e; with_reducible apply (h.asResult); done) | (revert e; with_reducible apply (h.failWith); done) | (revert e; with_reducible apply (h.NewInst); done) | (revert e; with_reducible apply (h.NewStore); done) | (revert e; with_reducible apply (h.NewTerm); done) | (revert e; with_reducible apply (h.NewBlock); done) | (revert e; with_reducible apply ((iht _ (by rfl)).grows h); done) | (revert e; with_reducible apply (h.newCaseBlocks); done) | (revert e; with_reducible apply (Grows.taggedSwitchCases ihv h); done) | (revert e; with_reducible apply (Grows.booleanSwitchCases ihv h); done) | (revert e; with_reducible apply (Grows.switchBodies ihb h); done) | fail)
    | (apply stepWith e; (focus (with_reducible apply (@ite_ok _ _ _ _ _ _); done)); intro e2
       clear e
       rcases e2 with ⟨_, e⟩ | ⟨_, e⟩)
    | (simp only [bind_assoc, pure_bind] at e)
    | (rw [bind_ok] at e
       obtain ⟨⟨x1, g1⟩, e1, e⟩ := e
       try dsimp only at e
       first
         | (apply stepWith e1; (focus (with_reducible apply (h.NewInst); done)); clear h; intro h) | (apply stepWith e1; (focus (with_reducible apply (h.NewStore); done)); clear h; intro h) | (apply stepWith e1; (focus (with_reducible apply (h.NewTerm); done)); clear h; intro h) | (apply stepWith e1; (focus (with_reducible apply (h.NewBlock); done)); clear h; intro h) | (apply stepWith e1; (focus (with_reducible apply ((iht _ (by rfl)).grows h); done)); clear h; intro h) | (apply stepWith e1; (focus (with_reducible apply (h.newCaseBlocks); done)); clear h; intro h) | (apply stepWith e1; (focus (with_reducible apply (Grows.taggedSwitchCases ihv h); done)); clear h; intro h) | (apply stepWith e1; (focus (with_reducible apply (Grows.booleanSwitchCases ihv h); done)); clear h; intro h) | (apply stepWith e1; (focus (with_reducible apply (Grows.switchBodies ihb h); done)); clear h; intro h)
         | (cases e1)
         | (refine Grows.cut (b := g1) ?_ ?_ <;>
             first | (intro h2; clear h e1; rename' h2 => h) | (clear e; rename' e1 => e))
         | fail)
    | (split at e <;>
       try (rename_i heq
            first | (apply stepWith heq; (focus (with_reducible apply (h.NewInst); done)); clear h; intro h) | (apply stepWith heq; (focus (with_reducible apply (h.NewStore); done)); clear h; intro h) | (apply stepWith heq; (focus (with_reducible apply (h.NewTerm); done)); clear h; intro h) | (apply stepWith heq; (focus (with_reducible apply (h.NewBlock); done)); clear h; intro h) | (apply stepWith heq; (focus (with_reducible apply ((iht _ (by rfl)).grows h); done)); clear h; intro h) | (apply stepWith heq; (focus (with_reducible apply (h.newCaseBlocks); done)); clear h; intro h) | (apply stepWith heq; (focus (with_reducible apply (Grows.taggedSwitchCases ihv h); done)); clear h; intro h) | (apply stepWith heq; (focus (with_reducible apply (Grows.booleanSwitchCases ihv h); done)); clear h; intro h) | (apply stepWith heq; (focus (with_reducible apply (Grows.switchBodies ihb h); done)); clear h; intro h) | fail))
    | (cases e; first | done | exact h.ext | fail)
    | (dsimp only at e)
    | fail)

theorem StmtOK.functionStatement (funcName : String) (parameters : List String) (returnType : Option Expression)
    {body : Option (List Statement)} (ihb : ∀ l, body = some l → ∀ s ∈ l, StmtOK s) :
    StmtOK (.FunctionStatement funcName parameters returnType body) := by
  constructor
  intro a g x g' r _ h e
  replace h : Grows a x := h.ext
  rw [generateStatement_function_eq] at e
  try simp only [IRGenerator.NewAlloca, IRGenerator.NewLoad, IRGenerator.NewBin, IRGenerator.NewICmp, IRGenerator.NewFCmp, IRGenerator.NewGetElementPtr, IRGenerator.funcValue, NewCall_func, IRGenerator.NewCall, IRGenerator.NewZExt, IRGenerator.NewSelect, IRGenerator.NewBr, IRGenerator.NewCondBr, IRGenerator.NewRet, IRGenerator.NewUnreachable, IRGenerator.NewFunc, IRGenerator.NewGlobalDef] at e
  repeat' (first
    | (first | (revert e; with_reducible apply (h.asResult); done) | (revert e; with_reducible apply (h.failWith); done) | (revert e; with_reducible apply (h.NewInst); done) | (revert e; with_reducible apply (h.NewStore); done) | (revert e; with_reducible apply (h.NewTerm); done) | (revert e; with_reducible apply (h.NewBlock); done) | (revert e; with_reducible apply (h.bindParameters); done) | (revert e; with_reducible apply (Grows.generateBlockStatement (ihb _ (by rfl)) h); done) | (revert e; with_reducible apply (h.implicitReturn); done) | fail)
    | (apply stepWith e; (focus (with_reducible apply (@ite_ok _ _ _ _ _ _); done)); intro e2
       clear e
       rcases e2 with ⟨_, e⟩ | ⟨_, e⟩)
    | (simp only [bind_assoc, pure_bind] at e)
    | (rw [bind_ok] at e
       obtain ⟨⟨x1, g1⟩, e1, e⟩ := e
       try dsimp only at e
       first
         | (apply stepWith e1; (focus (with_reducible apply (h.NewInst); done)); clear h; intro h) | (apply stepWith e1; (focus (with_reducible apply (h.NewStore); done)); clear h; intro h) | (apply stepWith e1; (focus (with_reducible apply (h.NewTerm); done)); clear h; intro h) | (apply stepWith e1; (focus (with_reducible apply (h.NewBlock); done)); clear h; intro h) | (apply stepWith e1; (focus (with_reducible apply (h.bindParameters); done)); clear h; intro h) | (apply stepWith e1; (focus (with_reducible apply (Grows.generateBlockStatement (ihb _ (by rfl)) h); done)); clear h; intro h) | (apply stepWith e1; (focus (with_reducible apply (h.implicitReturn); done)); clear h; intro h)
         | (cases e1)
         | (refine Grows.cut (b := g1) ?_ ?_ <;>
             first | (intro h2; clear h e1; rename' h2 => h) | (clear e; rename' e1 => e))
         | fail)
    | (split at e <;>
       try (rename_i heq
            first | (apply stepWith heq; (focus (with_reducible apply (h.functionReturnType); done)); clear h; intro h) | (apply stepWith heq; (focus (with_reducible apply (h.NewInst); done)); clear h; intro h) | (apply stepWith heq; (focus (with_reducible apply (h.NewStore); done)); clear h; intro h) | (apply stepWith heq; (focus (with_reducible apply (h.NewTerm); done)); clear h; intro h) | (apply stepWith heq; (focus (with_reducible apply (h.NewBlock); done)); clear h; intro h) | (apply stepWith heq; (focus (with_reducible apply (h.bindParameters); done)); clear h; intro h) | (apply stepWith heq; (focus (with_reducible apply (Grows.generateBlockStatement (ihb _ (by rfl)) h); done)); clear h; intro h) | (apply stepWith heq; (focus (with_reducible apply (h.implicitReturn); done)); clear h; intro h) | fail))
    | (cases e; first | done | exact h.ext | fail)
    | (dsimp only at e)
    | fail)

theorem StmtOK.otherStatement (t : String) :
    StmtOK (.Other t) := by
  constructor
  intro a g x g' r _ h e
  replace h : Grows a x := h.ext
  rw [generateStatement_other_eq] at e
  try simp only [IRGenerator.NewAlloca, IRGenerator.NewLoad, IRGenerator.NewBin, IRGenerator.NewICmp, IRGenerator.NewFCmp, IRGenerator.NewGetElementPtr, IRGenerator.funcValue, NewCall_func, IRGenerator.NewCall, IRGenerator.NewZExt, IRGenerator.NewSelect, IRGenerator.NewBr, IRGenerator.NewCondBr, IRGenerator.NewRet, IRGenerator.NewUnreachable, IRGenerator.NewFunc, IRGenerator.NewGlobalDef] at e
  repeat' (first
    | (first | (revert e; with_reducible apply (h.asResult); done) | (revert e; with_reducible apply (h.failWith); done) | (revert e; with_reducible apply (h.NewInst); done) | (revert e; with_reducible apply (h.NewStore); done) | (revert e; with_reducible apply (h.NewTerm); done) | (revert e; with_reducible apply (h.NewBlock); done) | fail)
    | (apply stepWith e; (focus (with_reducible apply (@ite_ok _ _ _ _ _ _); done)); intro e2
       clear e
       rcases e2 with ⟨_, e⟩ | ⟨_, e⟩)
    | (simp only [bind_assoc, pure_bind] at e)
    | (rw [bind_ok] at e
       obtain ⟨⟨x1, g1⟩, e1, e⟩ := e
       try dsimp only at e
       first
         | (apply stepWith e1; (focus (with_reducible apply (h.NewInst); done)); clear h; intro h) | (apply stepWith e1; (focus (with_reducible apply (h.NewStore); done)); clear h; intro h) | (apply stepWith e1; (focus (with_reducible apply (h.NewTerm); done)); clear h; intro h) | (apply stepWith e1; (focus (with_reducible apply (h.NewBlock); done)); clear h; intro h)
         | (cases e1)
         | (refine Grows.cut (b := g1) ?_ ?_ <;>
             first | (intro h2; clear h e1; rename' h2 => h) | (clear e; rename' e1 => e))
         | fail)
    | (split at e <;>
       try (rename_i heq
            first | (apply stepWith heq; (focus (with_reducible apply (h.NewInst); done)); clear h; intro h) | (apply stepWith heq; (focus (with_reducible apply (h.NewStore); done)); clear h; intro h) | (apply stepWith heq; (focus (with_reducible apply (h.NewTerm); done)); clear h; intro h) | (apply stepWith heq; (focus (with_reducible apply (h.NewBlock); done)); clear h; intro h) | fail))
    | (cases e; first | done | exact h.ext | fail)
    | (dsimp only at e)
    | fail)

theorem sizeOf_lt_of_mem_values {c : CaseClause} {cases : List CaseClause} {e : Expression}
    (hc : c ∈ cases) (he : e ∈ c.values) : sizeOf e < sizeOf cases := by
  have h1 := List.sizeOf_lt_of_mem hc
  rcases c with ⟨d, vs, b⟩
  have h2 := List.sizeOf_lt_of_mem (show e ∈ vs from he)
  simp at h1
  omega

theorem sizeOf_lt_of_mem_body {c : CaseClause} {cases : List CaseClause} {s : Statement}
    (hc : c ∈ cases) (hs : s ∈ c.body) : sizeOf s < sizeOf cases := by
  have h1 := List.sizeOf_lt_of_mem hc
  rcases c with ⟨d, vs, b⟩
  have h2 := List.sizeOf_lt_of_mem (show s ∈ b from hs)
  simp at h1
  omega

theorem sizeOf_lt_of_mem_block {body : Option (List Statement)} {l : List Statement}
    {s : Statement} (hl : body = some l) (hs : s ∈ l) : sizeOf s < sizeOf body := by
  subst hl
  have h2 := List.sizeOf_lt_of_mem hs
  simp
  omega

theorem sizeOf_lt_of_some {α : Type} [SizeOf α] {o : Option α} {x : α} (h : o = some x) :
    sizeOf x < sizeOf o := by
  subst h
  simp

/-- An expression lowered outside `irgen.go` only extends the generator, by
its contract. -/
theorem ExprOK.external {e : Expression} (l : ExternalExpression)
    (he : ∀ g, generateExpression e g = l.run g) : ExprOK e := by
  constructor
  intro a g x g' r _ h e1
  rw [he] at e1
  exact h.ext.trans (l.grows x r g' e1)

/-- A statement lowered outside `irgen.go` only extends the generator, by
its contract. -/
theorem StmtOK.externalStatement {s : Statement} (l : ExternalStatement)
    (hs : ∀ g, generateStatement s g = l.run g) : StmtOK s := by
  constructor
  intro a g x g' r _ h e1
  rw [hs] at e1
  exact h.ext.trans (l.grows x r g' e1)

/-- Every expression and every statement lowers by extending the generator
only (by induction on the size of the node). -/
theorem lowering_grows (n : Nat) :
    (∀ e : Expression, sizeOf e ≤ n → ExprOK e) ∧ (∀ s : Statement, sizeOf s ≤ n → StmtOK s) := by
  induction n with
  | zero =>
    constructor
    · intro e hn
      cases e <;> simp at hn
    · intro s hn
      cases s <;> simp at hn
  | succ n ih =>
    obtain ⟨ihE, ihS⟩ := ih
    constructor
    · intro e hn
      cases e with
      | Identifier name => exact ExprOK.identifier name
      | IntegerLiteral v => exact ExprOK.integer v
      | FloatLiteral b => exact ExprOK.float b
      | StringLiteral v => exact ExprOK.string v
      | BooleanLiteral v => exact ExprOK.boolean v
      | PrefixExpression op right =>
        simp at hn
        exact ExprOK.prefix op (ihE right (by omega))
      | InfixExpression left op right =>
        simp at hn
        exact ExprOK.infix op (ihE left (by omega)) (ihE right (by omega))
      | PostfixExpression left op => exact ExprOK.postfix left op
      | CallExpression function arguments =>
        simp at hn
        exact ExprOK.call function fun e he =>
          ihE e (by have := List.sizeOf_lt_of_mem he; omega)
      | MemberCall object member arguments =>
        simp at hn
        exact ExprOK.memberCall object member fun e he =>
          ihE e (by have := List.sizeOf_lt_of_mem he; omega)
      | FunctionLiteral parameters body =>
        simp at hn
        exact ExprOK.functionLiteral parameters fun l hl s hs =>
          ihS s (by have := sizeOf_lt_of_mem_block hl hs; omega)
      | IfExpression condition consequence alternative =>
        simp at hn
        exact ExprOK.ifExpression (ihE condition (by omega))
          (fun l hl s hs => ihS s (by have := sizeOf_lt_of_mem_block hl hs; omega))
          (fun l hl s hs => ihS s (by have := sizeOf_lt_of_mem_block hl hs; omega))
      | ArrayLiteral elements =>
        simp at hn
        exact ExprOK.arrayLiteral fun e he =>
          ihE e (by have := List.sizeOf_lt_of_mem he; omega)
      | IndexExpression left index =>
        simp at hn
        exact ExprOK.indexExpression (ihE left (by omega)) (ihE index (by omega))
      | ArrayType size elementType => exact ExprOK.arrayType size elementType
      | NewExpression l => exact ExprOK.external l fun _ => rfl
      | MemberExpression l => exact ExprOK.external l fun _ => rfl
      | TemplateExpression l => exact ExprOK.external l fun _ => rfl
      | TryExpression l => exact ExprOK.external l fun _ => rfl
      | Other t => exact ExprOK.other t
    · intro s hn
      cases s with
      | PackageStatement name => exact StmtOK.package name
      | ImportStatement => exact StmtOK.importStatement
      | ExpressionStatement e =>
        simp at hn
        exact StmtOK.expression (ihE e (by omega))
      | VarStatement name type value =>
        simp at hn
        exact StmtOK.var name type fun v hv =>
          ihE v (by have := sizeOf_lt_of_some hv; omega)
      | ReturnStatement returnValue =>
        simp at hn
        exact StmtOK.returnStatement fun v hv =>
          ihE v (by have := sizeOf_lt_of_some hv; omega)
      | BlockStatement statements =>
        simp at hn
        exact StmtOK.block fun s hs =>
          ihS s (by have := List.sizeOf_lt_of_mem hs; omega)
      | WhileStatement condition body =>
        simp at hn
        exact StmtOK.whileStatement (ihE condition (by omega))
          (fun l hl s hs => ihS s (by have := sizeOf_lt_of_mem_block hl hs; omega))
      | ForStatement init condition post body =>
        simp at hn
        exact StmtOK.forStatement
          (fun s hs => ihS s (by have := sizeOf_lt_of_some hs; omega))
          (fun c hc => ihE c (by have := sizeOf_lt_of_some hc; omega))
          (fun s hs => ihS s (by have := sizeOf_lt_of_some hs; omega))
          (fun l hl s hs => ihS s (by have := sizeOf_lt_of_mem_block hl hs; omega))
      | SwitchStatement tag cases =>
        simp at hn
        exact StmtOK.switchStatement
          (fun t ht => ihE t (by have := sizeOf_lt_of_some ht; omega))
          (fun c hc e he => ihE e (by have := sizeOf_lt_of_mem_values hc he; omega))
          (fun c hc s hs => ihS s (by have := sizeOf_lt_of_mem_body hc hs; omega))
      | FunctionStatement name parameters returnType body =>
        simp at hn
        exact StmtOK.functionStatement name parameters returnType fun l hl s hs =>
          ihS s (by have := sizeOf_lt_of_mem_block hl hs; omega)
      | ClassStatement l => exact StmtOK.externalStatement l fun _ => rfl
      | TemplateStatement l => exact StmtOK.externalStatement l fun _ => rfl
      | TryCatchStatement l => exact StmtOK.externalStatement l fun _ => rfl
      | ThrowStatement l => exact StmtOK.externalStatement l fun _ => rfl
      | Other t => exact StmtOK.otherStatement t

/-- Lowering an expression only extends the generator. -/
theorem generateExpression_grows (e : Expression) (g g' : IRGenerator) (r : Option Value)
    (h : generateExpression e g = .ok (r, g')) : Grows g g' :=
  ((lowering_grows (sizeOf e)).1 e (Nat.le_refl _)).grows (Grows.refl g) h

/-- Lowering a statement only extends the generator. -/
theorem generateStatement_grows (s : Statement) (g g' : IRGenerator) (r : Unit)
    (h : generateStatement s g = .ok (r, g')) : Grows g g' :=
  ((lowering_grows (sizeOf s)).2 s (Nat.le_refl _)).grows (Grows.refl g) h

/-! ### A missing value comes with a diagnostic -/

/-- Every expression lowers by extending the generator only. -/
theorem exprOK (e : Expression) : ExprOK e :=
  (lowering_grows (sizeOf e)).1 e (Nat.le_refl _)

/-- Every statement lowers by extending the generator only. -/
theorem stmtOK (s : Statement) : StmtOK s :=
  (lowering_grows (sizeOf s)).2 s (Nat.le_refl _)

theorem Grows.generateExpression {a g x g' : IRGenerator} [Ext g x] {ex : Expression}
    {r : Option Value} (h : Grows a g) (e : generateExpression ex x = .ok (r, g')) :
    Grows a g' :=
  (exprOK ex).grows h e

theorem Grows.generateExpressionOf {a g x g' : IRGenerator} [Ext g x] (ex : Expression)
    {r : Option Value} (h : Grows a g) (e : Irgen.generateExpression ex x = .ok (r, g')) :
    Grows a g' :=
  (exprOK ex).grows h e

theorem Strict.step {a g g' : IRGenerator} (hs : Strict a g) (k : Grows g g') : Strict a g' :=
  Nat.lt_of_lt_of_le hs k.errors.length_le

theorem Strict.extend {a g x : IRGenerator} [i : Ext g x] (hs : Strict a g) : Strict a x :=
  hs.step i.grows

theorem Grows.strict {a g x g' : IRGenerator} [i : Ext g x] (h : Grows a g) (k : Strict x g') :
    Strict a g' :=
  Nat.lt_of_le_of_lt (h.trans i.grows).errors.length_le k

theorem Grows.report {a g x : IRGenerator} [i : Ext g x] (h : Grows a g) (msg : String) :
    Strict a (x.ReportError msg) := by
  have k := (h.trans i.grows).errors.length_le
  simp only [Strict, IRGenerator.ReportError_errors, List.length_append, List.length_singleton]
  omega

theorem Grows.failWith_nil {a g x g' : IRGenerator} [Ext g x] (h : Grows a g) {msg : String}
    {r : Option Value} (e : Irgen.failWith x msg = .ok (r, g')) : Strict a g' := by
  cases e
  exact h.report msg

theorem Grows.asResult_nil {a g g' : IRGenerator} (_h : Grows a g)
    {y : Except String (Value × IRGenerator)}
    (e : Irgen.asResult y = .ok (none, g')) : Strict a g' := by
  unfold Irgen.asResult at e
  split at e <;> cases e

theorem Grows.generateIdentifier_nil {a g x g' : IRGenerator} [Ext g x] {name : String}
    (h : Grows a g) (e : Irgen.generateIdentifier name x = .ok (none, g')) : Strict a g' := by
  replace h : Grows a x := h.ext
  unfold Irgen.generateIdentifier at e
  try simp only [IRGenerator.NewAlloca, IRGenerator.NewLoad, IRGenerator.NewBin, IRGenerator.NewICmp, IRGenerator.NewFCmp, IRGenerator.NewGetElementPtr, IRGenerator.funcValue, NewCall_func, IRGenerator.NewCall, IRGenerator.NewZExt, IRGenerator.NewSelect, IRGenerator.NewBr, IRGenerator.NewCondBr, IRGenerator.NewRet, IRGenerator.NewUnreachable, IRGenerator.NewFunc, IRGenerator.NewGlobalDef] at e
  repeat' (first
    | (with_reducible first
        | (revert e; apply (hs.step ∘ ((Grows.refl _).NewInst)); done)
        | (revert e; apply (hs.step ∘ ((Grows.refl _).NewStore)); done)
        | (revert e; apply (hs.step ∘ ((Grows.refl _).NewTerm)); done)
        | (revert e; apply (hs.step ∘ ((Grows.refl _).NewBlock)); done)
        | (revert e; apply (hs.step ∘ ((Grows.refl _).generateExpression)); done)
        | (revert e; apply (hs.step ∘ ((Grows.refl _).appendPrologue)); done)
        | (revert e; apply (hs.step ∘ ((Grows.refl _).appendEpilogue)); done)
        | (revert e; apply (hs.step ∘ ((Grows.refl _).generateBoundsCheck)); done)
        | (revert e; apply (hs.step ∘ (Grows.appendElements (fun e _ => exprOK e) (Grows.refl _))); done)
        | (revert e; apply (hs.step ∘ (Grows.callArguments (fun e _ => exprOK e) (Grows.refl _))); done)
        | (revert e; apply (hs.step ∘ (Grows.printfArguments (fun e _ => exprOK e) (Grows.refl _))); done)
        | (revert e; apply (hs.step ∘ (Grows.arrayElements (fun e _ => exprOK e) (Grows.refl _))); done)
        | (revert e; apply (hs.step ∘ ((Grows.refl _).bindLiteralParameters)); done)
        | (revert e; apply (hs.step ∘ (Grows.generateBlockStatement (fun s _ => stmtOK s) (Grows.refl _))); done)
        | (revert e; apply (hs.step ∘ ((Grows.refl _).implicitReturn)); done)
        | (revert e; apply (hs.step ∘ ((Grows.refl _).brIfOpen)); done)
        | (revert e; apply (hs.step ∘ ((Grows.refl _).asResult)); done)
        | (revert e; apply (hs.step ∘ ((Grows.refl _).failWith)); done)
        | (revert e; apply (hs.step ∘ ((Grows.refl _).generateIdentifier)); done)
        | (revert e; apply (hs.step ∘ ((Grows.refl _).prefixOperator)); done)
        | (revert e; apply (hs.step ∘ ((Grows.refl _).generatePostfixExpression)); done)
        | (revert e; apply (hs.step ∘ ((Grows.refl _).generateStringConcatenation)); done)
        | (revert e; apply (hs.step ∘ ((Grows.refl _).infixOperator)); done)
        | (revert e; apply (hs.step ∘ ((Grows.refl _).indexAccess)); done)
        | (revert e; apply (hs.step ∘ ((Grows.refl _).lenOrCap)); done)
        | (revert e; apply (hs.step ∘ ((Grows.refl _).makeSlice)); done)
        | (revert e; apply (hs.step ∘ ((Grows.refl _).printfNoArguments)); done)
        | (revert e; apply (hs.step ∘ ((Grows.refl _).printfCall)); done)
        | (revert e; apply (hs.step ∘ (Grows.generateLenCall (fun e _ => exprOK e) (Grows.refl _))); done)
        | (revert e; apply (hs.step ∘ (Grows.generateCapCall (fun e _ => exprOK e) (Grows.refl _))); done)
        | (revert e; apply (hs.step ∘ (Grows.generateAppendCall (fun e _ => exprOK e) (Grows.refl _))); done)
        | (revert e; apply (hs.step ∘ (Grows.generateMakeCall (fun e _ => exprOK e) (Grows.refl _))); done)
        | (revert e; apply (hs.step ∘ (Grows.generateExitCall (fun e _ => exprOK e) (Grows.refl _))); done)
        | (revert e; apply (h.asResult_nil); done)
        | (revert e; apply (h.failWith_nil); done)
        | fail)
    | (apply stepWith e; (focus (with_reducible apply (@ite_ok _ _ _ _ _ _); done)); intro e2
       clear e
       rcases e2 with ⟨_, e⟩ | ⟨_, e⟩)
    | (simp only [bind_assoc, pure_bind] at e)
    | (rw [bind_ok] at e
       obtain ⟨⟨x1, g1⟩, e1, e⟩ := e
       try dsimp only at e
       first
         | (apply stepWith e1; (focus (with_reducible apply (hs.step ∘ ((Grows.refl _).NewInst)); done)); clear hs; intro hs)
         | (apply stepWith e1; (focus (with_reducible apply (hs.step ∘ ((Grows.refl _).NewStore)); done)); clear hs; intro hs)
         | (apply stepWith e1; (focus (with_reducible apply (hs.step ∘ ((Grows.refl _).NewTerm)); done)); clear hs; intro hs)
         | (apply stepWith e1; (focus (with_reducible apply (hs.step ∘ ((Grows.refl _).NewBlock)); done)); clear hs; intro hs)
         | (apply stepWith e1; (focus (with_reducible apply (hs.step ∘ ((Grows.refl _).generateExpression)); done)); clear hs; intro hs)
         | (apply stepWith e1; (focus (with_reducible apply (hs.step ∘ ((Grows.refl _).appendPrologue)); done)); clear hs; intro hs)
         | (apply stepWith e1; (focus (with_reducible apply (hs.step ∘ ((Grows.refl _).appendEpilogue)); done)); clear hs; intro hs)
         | (apply stepWith e1; (focus (with_reducible apply (hs.step ∘ ((Grows.refl _).generateBoundsCheck)); done)); clear hs; intro hs)
         | (apply stepWith e1; (focus (with_reducible apply (hs.step ∘ (Grows.appendElements (fun e _ => exprOK e) (Grows.refl _))); done)); clear hs; intro hs)
         | (apply stepWith e1; (focus (with_reducible apply (hs.step ∘ (Grows.callArguments (fun e _ => exprOK e) (Grows.refl _))); done)); clear hs; intro hs)
         | (apply stepWith e1; (focus (with_reducible apply (hs.step ∘ (Grows.printfArguments (fun e _ => exprOK e) (Grows.refl _))); done)); clear hs; intro hs)
         | (apply stepWith e1; (focus (with_reducible apply (hs.step ∘ (Grows.arrayElements (fun e _ => exprOK e) (Grows.refl _))); done)); clear hs; intro hs)
         | (apply stepWith e1; (focus (with_reducible apply (hs.step ∘ ((Grows.refl _).bindLiteralParameters)); done)); clear hs; intro hs)
         | (apply stepWith e1; (focus (with_reducible apply (hs.step ∘ (Grows.generateBlockStatement (fun s _ => stmtOK s) (Grows.refl _))); done)); clear hs; intro hs)
         | (apply stepWith e1; (focus (with_reducible apply (hs.step ∘ ((Grows.refl _).implicitReturn)); done)); clear hs; intro hs)
         | (apply stepWith e1; (focus (with_reducible apply (hs.step ∘ ((Grows.refl _).brIfOpen)); done)); clear hs; intro hs)
         | (apply stepWith e1; (focus (with_reducible apply (h.NewInst); done)); clear h; intro h)
         | (apply stepWith e1; (focus (with_reducible apply (h.NewStore); done)); clear h; intro h)
         | (apply stepWith e1; (focus (with_reducible apply (h.NewTerm); done)); clear h; intro h)
         | (apply stepWith e1; (focus (with_reducible apply (h.NewBlock); done)); clear h; intro h)
         | (apply stepWith e1; (focus (with_reducible apply (h.generateExpression); done)); clear h; intro h)
         | (apply stepWith e1; (focus (with_reducible apply (h.appendPrologue); done)); clear h; intro h)
         | (apply stepWith e1; (focus (with_reducible apply (h.appendEpilogue); done)); clear h; intro h)
         | (apply stepWith e1; (focus (with_reducible apply (h.generateBoundsCheck); done)); clear h; intro h)
         | (apply stepWith e1; (focus (with_reducible apply (Grows.appendElements (fun e _ => exprOK e) h); done)); clear h; intro h)
         | (apply stepWith e1; (focus (with_reducible apply (Grows.callArguments (fun e _ => exprOK e) h); done)); clear h; intro h)
         | (apply stepWith e1; (focus (with_reducible apply (Grows.printfArguments (fun e _ => exprOK e) h); done)); clear h; intro h)
         | (apply stepWith e1; (focus (with_reducible apply (Grows.arrayElements (fun e _ => exprOK e) h); done)); clear h; intro h)
         | (apply stepWith e1; (focus (with_reducible apply (h.bindLiteralParameters); done)); clear h; intro h)
         | (apply stepWith e1; (focus (with_reducible apply (Grows.generateBlockStatement (fun s _ => stmtOK s) h); done)); clear h; intro h)
         | (apply stepWith e1; (focus (with_reducible apply (h.implicitReturn); done)); clear h; intro h)
         | (apply stepWith e1; (focus (with_reducible apply (h.brIfOpen); done)); clear h; intro h)
         | (cases e1)
         | fail)
    | (split at e <;>
       try (rename_i heq
            first
              | (apply stepWith heq; (focus (with_reducible apply (hs.step ∘ ((Grows.refl _).getOrDeclare)); done)); clear hs; intro hs)
              | (apply stepWith heq; (focus (with_reducible apply (hs.step ∘ ((Grows.refl _).resolveCallee)); done)); clear hs; intro hs)
              | (apply stepWith heq; (focus (with_reducible apply (hs.step ∘ ((Grows.refl _).generateStringLiteral)); done)); clear hs; intro hs)
              | (apply stepWith heq; (focus (with_reducible apply (hs.step ∘ ((Grows.refl _).NewInst)); done)); clear hs; intro hs)
              | (apply stepWith heq; (focus (with_reducible apply (hs.step ∘ ((Grows.refl _).NewStore)); done)); clear hs; intro hs)
              | (apply stepWith heq; (focus (with_reducible apply (hs.step ∘ ((Grows.refl _).NewTerm)); done)); clear hs; intro hs)
              | (apply stepWith heq; (focus (with_reducible apply (hs.step ∘ ((Grows.refl _).NewBlock)); done)); clear hs; intro hs)
              | (apply stepWith heq; (focus (with_reducible apply (hs.step ∘ ((Grows.refl _).generateExpression)); done)); clear hs; intro hs)
              | (apply stepWith heq; (focus (with_reducible apply (hs.step ∘ ((Grows.refl _).appendPrologue)); done)); clear hs; intro hs)
              | (apply stepWith heq; (focus (with_reducible apply (hs.step ∘ ((Grows.refl _).appendEpilogue)); done)); clear hs; intro hs)
              | (apply stepWith heq; (focus (with_reducible apply (hs.step ∘ ((Grows.refl _).generateBoundsCheck)); done)); clear hs; intro hs)
              | (apply stepWith heq; (focus (with_reducible apply (hs.step ∘ (Grows.appendElements (fun e _ => exprOK e) (Grows.refl _))); done)); clear hs; intro hs)
              | (apply stepWith heq; (focus (with_reducible apply (hs.step ∘ (Grows.callArguments (fun e _ => exprOK e) (Grows.refl _))); done)); clear hs; intro hs)
              | (apply stepWith heq; (focus (with_reducible apply (hs.step ∘ (Grows.printfArguments (fun e _ => exprOK e) (Grows.refl _))); done)); clear hs; intro hs)
              | (apply stepWith heq; (focus (with_reducible apply (hs.step ∘ (Grows.arrayElements (fun e _ => exprOK e) (Grows.refl _))); done)); clear hs; intro hs)
              | (apply stepWith heq; (focus (with_reducible apply (hs.step ∘ ((Grows.refl _).bindLiteralParameters)); done)); clear hs; intro hs)
              | (apply stepWith heq; (focus (with_reducible apply (hs.step ∘ (Grows.generateBlockStatement (fun s _ => stmtOK s) (Grows.refl _))); done)); clear hs; intro hs)
              | (apply stepWith heq; (focus (with_reducible apply (hs.step ∘ ((Grows.refl _).implicitReturn)); done)); clear hs; intro hs)
              | (apply stepWith heq; (focus (with_reducible apply (hs.step ∘ ((Grows.refl _).brIfOpen)); done)); clear hs; intro hs)
              | (apply stepWith heq; (focus (with_reducible apply (h.getOrDeclare); done)); clear h; intro h)
              | (apply stepWith heq; (focus (with_reducible apply (h.resolveCallee); done)); clear h; intro h)
              | (apply stepWith heq; (focus (with_reducible apply (h.generateStringLiteral); done)); clear h; intro h)
              | (apply stepWith heq; (focus (with_reducible apply (h.NewInst); done)); clear h; intro h)
              | (apply stepWith heq; (focus (with_reducible apply (h.NewStore); done)); clear h; intro h)
              | (apply stepWith heq; (focus (with_reducible apply (h.NewTerm); done)); clear h; intro h)
              | (apply stepWith heq; (focus (with_reducible apply (h.NewBlock); done)); clear h; intro h)
              | (apply stepWith heq; (focus (with_reducible apply (h.generateExpression); done)); clear h; intro h)
              | (apply stepWith heq; (focus (with_reducible apply (h.appendPrologue); done)); clear h; intro h)
              | (apply stepWith heq; (focus (with_reducible apply (h.appendEpilogue); done)); clear h; intro h)
              | (apply stepWith heq; (focus (with_reducible apply (h.generateBoundsCheck); done)); clear h; intro h)
              | (apply stepWith heq; (focus (with_reducible apply (Grows.appendElements (fun e _ => exprOK e) h); done)); clear h; intro h)
              | (apply stepWith heq; (focus (with_reducible apply (Grows.callArguments (fun e _ => exprOK e) h); done)); clear h; intro h)
              | (apply stepWith heq; (focus (with_reducible apply (Grows.printfArguments (fun e _ => exprOK e) h); done)); clear h; intro h)
              | (apply stepWith heq; (focus (with_reducible apply (Grows.arrayElements (fun e _ => exprOK e) h); done)); clear h; intro h)
              | (apply stepWith heq; (focus (with_reducible apply (h.bindLiteralParameters); done)); clear h; intro h)
              | (apply stepWith heq; (focus (with_reducible apply (Grows.generateBlockStatement (fun s _ => stmtOK s) h); done)); clear h; intro h)
              | (apply stepWith heq; (focus (with_reducible apply (h.implicitReturn); done)); clear h; intro h)
              | (apply stepWith heq; (focus (with_reducible apply (h.brIfOpen); done)); clear h; intro h)
              | fail))
    | (cases e; first | done | exact hs.extend | exact h.report _ | fail)
    | (dsimp only at e)
    | fail)

theorem Grows.prefixOperator_nil {a g x g' : IRGenerator} [Ext g x] {op : String} {right : Value}
    (h : Grows a g) (e : Irgen.prefixOperator op right x = .ok (none, g')) : Strict a g' := by
  replace h : Grows a x := h.ext
  unfold Irgen.prefixOperator at e
  try simp only [IRGenerator.NewAlloca, IRGenerator.NewLoad, IRGenerator.NewBin, IRGenerator.NewICmp, IRGenerator.NewFCmp, IRGenerator.NewGetElementPtr, IRGenerator.funcValue, NewCall_func, IRGenerator.NewCall, IRGenerator.NewZExt, IRGenerator.NewSelect, IRGenerator.NewBr, IRGenerator.NewCondBr, IRGenerator.NewRet, IRGenerator.NewUnreachable, IRGenerator.NewFunc, IRGenerator.NewGlobalDef] at e
  repeat' (first
    | (with_reducible first
        | (revert e; apply (hs.step ∘ ((Grows.refl _).NewInst)); done)
        | (revert e; apply (hs.step ∘ ((Grows.refl _).NewStore)); done)
        | (revert e; apply (hs.step ∘ ((Grows.refl _).NewTerm)); done)
        | (revert e; apply (hs.step ∘ ((Grows.refl _).NewBlock)); done)
        | (revert e; apply (hs.step ∘ ((Grows.refl _).generateExpression)); done)
        | (revert e; apply (hs.step ∘ ((Grows.refl _).appendPrologue)); done)
        | (revert e; apply (hs.step ∘ ((Grows.refl _).appendEpilogue)); done)
        | (revert e; apply (hs.step ∘ ((Grows.refl _).generateBoundsCheck)); done)
        | (revert e; apply (hs.step ∘ (Grows.appendElements (fun e _ => exprOK e) (Grows.refl _))); done)
        | (revert e; apply (hs.step ∘ (Grows.callArguments (fun e _ => exprOK e) (Grows.refl _))); done)
        | (revert e; apply (hs.step ∘ (Grows.printfArguments (fun e _ => exprOK e) (Grows.refl _))); done)
        | (revert e; apply (hs.step ∘ (Grows.arrayElements (fun e _ => exprOK e) (Grows.refl _))); done)
        | (revert e; apply (hs.step ∘ ((Grows.refl _).bindLiteralParameters)); done)
        | (revert e; apply (hs.step ∘ (Grows.generateBlockStatement (fun s _ => stmtOK s) (Grows.refl _))); done)
        | (revert e; apply (hs.step ∘ ((Grows.refl _).implicitReturn)); done)
        | (revert e; apply (hs.step ∘ ((Grows.refl _).brIfOpen)); done)
        | (revert e; apply (hs.step ∘ ((Grows.refl _).asResult)); done)
        | (revert e; apply (hs.step ∘ ((Grows.refl _).failWith)); done)
        | (revert e; apply (hs.step ∘ ((Grows.refl _).generateIdentifier)); done)
        | (revert e; apply (hs.step ∘ ((Grows.refl _).prefixOperator)); done)
        | (revert e; apply (hs.step ∘ ((Grows.refl _).generatePostfixExpression)); done)
        | (revert e; apply (hs.step ∘ ((Grows.refl _).generateStringConcatenation)); done)
        | (revert e; apply (hs.step ∘ ((Grows.refl _).infixOperator)); done)
        | (revert e; apply (hs.step ∘ ((Grows.refl _).indexAccess)); done)
        | (revert e; apply (hs.step ∘ ((Grows.refl _).lenOrCap)); done)
        | (revert e; apply (hs.step ∘ ((Grows.refl _).makeSlice)); done)
        | (revert e; apply (hs.step ∘ ((Grows.refl _).printfNoArguments)); done)
        | (revert e; apply (hs.step ∘ ((Grows.refl _).printfCall)); done)
        | (revert e; apply (hs.step ∘ (Grows.generateLenCall (fun e _ => exprOK e) (Grows.refl _))); done)
        | (revert e; apply (hs.step ∘ (Grows.generateCapCall (fun e _ => exprOK e) (Grows.refl _))); done)
        | (revert e; apply (hs.step ∘ (Grows.generateAppendCall (fun e _ => exprOK e) (Grows.refl _))); done)
        | (revert e; apply (hs.step ∘ (Grows.generateMakeCall (fun e _ => exprOK e) (Grows.refl _))); done)
        | (revert e; apply (hs.step ∘ (Grows.generateExitCall (fun e _ => exprOK e) (Grows.refl _))); done)
        | (revert e; apply (h.asResult_nil); done)
        | (revert e; apply (h.failWith_nil); done)
        | fail)
    | (apply stepWith e; (focus (with_reducible apply (@ite_ok _ _ _ _ _ _); done)); intro e2
       clear e
       rcases e2 with ⟨_, e⟩ | ⟨_, e⟩)
    | (simp only [bind_assoc, pure_bind] at e)
    | (rw [bind_ok] at e
       obtain ⟨⟨x1, g1⟩, e1, e⟩ := e
       try dsimp only at e
       first
         | (apply stepWith e1; (focus (with_reducible apply (hs.step ∘ ((Grows.refl _).NewInst)); done)); clear hs; intro hs)
         | (apply stepWith e1; (focus (with_reducible apply (hs.step ∘ ((Grows.refl _).NewStore)); done)); clear hs; intro hs)
         | (apply stepWith e1; (focus (with_reducible apply (hs.step ∘ ((Grows.refl _).NewTerm)); done)); clear hs; intro hs)
         | (apply stepWith e1; (focus (with_reducible apply (hs.step ∘ ((Grows.refl _).NewBlock)); done)); clear hs; intro hs)
         | (apply stepWith e1; (focus (with_reducible apply (hs.step ∘ ((Grows.refl _).generateExpression)); done)); clear hs; intro hs)
         | (apply stepWith e1; (focus (with_reducible apply (hs.step ∘ ((Grows.refl _).appendPrologue)); done)); clear hs; intro hs)
         | (apply stepWith e1; (focus (with_reducible apply (hs.step ∘ ((Grows.refl _).appendEpilogue)); done)); clear hs; intro hs)
         | (apply stepWith e1; (focus (with_reducible apply (hs.step ∘ ((Grows.refl _).generateBoundsCheck)); done)); clear hs; intro hs)
         | (apply stepWith e1; (focus (with_reducible apply (hs.step ∘ (Grows.appendElements (fun e _ => exprOK e) (Grows.refl _))); done)); clear hs; intro hs)
         | (apply stepWith e1; (focus (with_reducible apply (hs.step ∘ (Grows.callArguments (fun e _ => exprOK e) (Grows.refl _))); done)); clear hs; intro hs)
         | (apply stepWith e1; (focus (with_reducible apply (hs.step ∘ (Grows.printfArguments (fun e _ => exprOK e) (Grows.refl _))); done)); clear hs; intro hs)
         | (apply stepWith e1; (focus (with_reducible apply (hs.step ∘ (Grows.arrayElements (fun e _ => exprOK e) (Grows.refl _))); done)); clear hs; intro hs)
         | (apply stepWith e1; (focus (with_reducible apply (hs.step ∘ ((Grows.refl _).bindLiteralParameters)); done)); clear hs; intro hs)
         | (apply stepWith e1; (focus (with_reducible apply (hs.step ∘ (Grows.generateBlockStatement (fun s _ => stmtOK s) (Grows.refl _))); done)); clear hs; intro hs)
         | (apply stepWith e1; (focus (with_reducible apply (hs.step ∘ ((Grows.refl _).implicitReturn)); done)); clear hs; intro hs)
         | (apply stepWith e1; (focus (with_reducible apply (hs.step ∘ ((Grows.refl _).brIfOpen)); done)); clear hs; intro hs)
         | (apply stepWith e1; (focus (with_reducible apply (h.NewInst); done)); clear h; intro h)
         | (apply stepWith e1; (focus (with_reducible apply (h.NewStore); done)); clear h; intro h)
         | (apply stepWith e1; (focus (with_reducible apply (h.NewTerm); done)); clear h; intro h)
         | (apply stepWith e1; (focus (with_reducible apply (h.NewBlock); done)); clear h; intro h)
         | (apply stepWith e1; (focus (with_reducible apply (h.generateExpression); done)); clear h; intro h)
         | (apply stepWith e1; (focus (with_reducible apply (h.appendPrologue); done)); clear h; intro h)
         | (apply stepWith e1; (focus (with_reducible apply (h.appendEpilogue); done)); clear h; intro h)
         | (apply stepWith e1; (focus (with_reducible apply (h.generateBoundsCheck); done)); clear h; intro h)
         | (apply stepWith e1; (focus (with_reducible apply (Grows.appendElements (fun e _ => exprOK e) h); done)); clear h; intro h)
         | (apply stepWith e1; (focus (with_reducible apply (Grows.callArguments (fun e _ => exprOK e) h); done)); clear h; intro h)
         | (apply stepWith e1; (focus (with_reducible apply (Grows.printfArguments (fun e _ => exprOK e) h); done)); clear h; intro h)
         | (apply stepWith e1; (focus (with_reducible apply (Grows.arrayElements (fun e _ => exprOK e) h); done)); clear h; intro h)
         | (apply stepWith e1; (focus (with_reducible apply (h.bindLiteralParameters); done)); clear h; intro h)
         | (apply stepWith e1; (focus (with_reducible apply (Grows.generateBlockStatement (fun s _ => stmtOK s) h); done)); clear h; intro h)
         | (apply stepWith e1; (focus (with_reducible apply (h.implicitReturn); done)); clear h; intro h)
         | (apply stepWith e1; (focus (with_reducible apply (h.brIfOpen); done)); clear h; intro h)
         | (cases e1)
         | fail)
    | (split at e <;>
       try (rename_i heq
            first
              | (apply stepWith heq; (focus (with_reducible apply (hs.step ∘ ((Grows.refl _).getOrDeclare)); done)); clear hs; intro hs)
              | (apply stepWith heq; (focus (with_reducible apply (hs.step ∘ ((Grows.refl _).resolveCallee)); done)); clear hs; intro hs)
              | (apply stepWith heq; (focus (with_reducible apply (hs.step ∘ ((Grows.refl _).generateStringLiteral)); done)); clear hs; intro hs)
              | (apply stepWith heq; (focus (with_reducible apply (hs.step ∘ ((Grows.refl _).NewInst)); done)); clear hs; intro hs)
              | (apply stepWith heq; (focus (with_reducible apply (hs.step ∘ ((Grows.refl _).NewStore)); done)); clear hs; intro hs)
              | (apply stepWith heq; (focus (with_reducible apply (hs.step ∘ ((Grows.refl _).NewTerm)); done)); clear hs; intro hs)
              | (apply stepWith heq; (focus (with_reducible apply (hs.step ∘ ((Grows.refl _).NewBlock)); done)); clear hs; intro hs)
              | (apply stepWith heq; (focus (with_reducible apply (hs.step ∘ ((Grows.refl _).generateExpression)); done)); clear hs; intro hs)
              | (apply stepWith heq; (focus (with_reducible apply (hs.step ∘ ((Grows.refl _).appendPrologue)); done)); clear hs; intro hs)
              | (apply stepWith heq; (focus (with_reducible apply (hs.step ∘ ((Grows.refl _).appendEpilogue)); done)); clear hs; intro hs)
              | (apply stepWith heq; (focus (with_reducible apply (hs.step ∘ ((Grows.refl _).generateBoundsCheck)); done)); clear hs; intro hs)
              | (apply stepWith heq; (focus (with_reducible apply (hs.step ∘ (Grows.appendElements (fun e _ => exprOK e) (Grows.refl _))); done)); clear hs; intro hs)
              | (apply stepWith heq; (focus (with_reducible apply (hs.step ∘ (Grows.callArguments (fun e _ => exprOK e) (Grows.refl _))); done)); clear hs; intro hs)
              | (apply stepWith heq; (focus (with_reducible apply (hs.step ∘ (Grows.printfArguments (fun e _ => exprOK e) (Grows.refl _))); done)); clear hs; intro hs)
              | (apply stepWith heq; (focus (with_reducible apply (hs.step ∘ (Grows.arrayElements (fun e _ => exprOK e) (Grows.refl _))); done)); clear hs; intro hs)
              | (apply stepWith heq; (focus (with_reducible apply (hs.step ∘ ((Grows.refl _).bindLiteralParameters)); done)); clear hs; intro hs)
              | (apply stepWith heq; (focus (with_reducible apply (hs.step ∘ (Grows.generateBlockStatement (fun s _ => stmtOK s) (Grows.refl _))); done)); clear hs; intro hs)
              | (apply stepWith heq; (focus (with_reducible apply (hs.step ∘ ((Grows.refl _).implicitReturn)); done)); clear hs; intro hs)
              | (apply stepWith heq; (focus (with_reducible apply (hs.step ∘ ((Grows.refl _).brIfOpen)); done)); clear hs; intro hs)
              | (apply stepWith heq; (focus (with_reducible apply (h.getOrDeclare); done)); clear h; intro h)
              | (apply stepWith heq; (focus (with_reducible apply (h.resolveCallee); done)); clear h; intro h)
              | (apply stepWith heq; (focus (with_reducible apply (h.generateStringLiteral); done)); clear h; intro h)
              | (apply stepWith heq; (focus (with_reducible apply (h.NewInst); done)); clear h; intro h)
              | (apply stepWith heq; (focus (with_reducible apply (h.NewStore); done)); clear h; intro h)
              | (apply stepWith heq; (focus (with_reducible apply (h.NewTerm); done)); clear h; intro h)
              | (apply stepWith heq; (focus (with_reducible apply (h.NewBlock); done)); clear h; intro h)
              | (apply stepWith heq; (focus (with_reducible apply (h.generateExpression); done)); clear h; intro h)
              | (apply stepWith heq; (focus (with_reducible apply (h.appendPrologue); done)); clear h; intro h)
              | (apply stepWith heq; (focus (with_reducible apply (h.appendEpilogue); done)); clear h; intro h)
              | (apply stepWith heq; (focus (with_reducible apply (h.generateBoundsCheck); done)); clear h; intro h)
              | (apply stepWith heq; (focus (with_reducible apply (Grows.appendElements (fun e _ => exprOK e) h); done)); clear h; intro h)
              | (apply stepWith heq; (focus (with_reducible apply (Grows.callArguments (fun e _ => exprOK e) h); done)); clear h; intro h)
              | (apply stepWith heq; (focus (with_reducible apply (Grows.printfArguments (fun e _ => exprOK e) h); done)); clear h; intro h)
              | (apply stepWith heq; (focus (with_reducible apply (Grows.arrayElements (fun e _ => exprOK e) h); done)); clear h; intro h)
              | (apply stepWith heq; (focus (with_reducible apply (h.bindLiteralParameters); done)); clear h; intro h)
              | (apply stepWith heq; (focus (with_reducible apply (Grows.generateBlockStatement (fun s _ => stmtOK s) h); done)); clear h; intro h)
              | (apply stepWith heq; (focus (with_reducible apply (h.implicitReturn); done)); clear h; intro h)
              | (apply stepWith heq; (focus (with_reducible apply (h.brIfOpen); done)); clear h; intro h)
              | fail))
    | (cases e; first | done | exact hs.extend | exact h.report _ | fail)
    | (dsimp only at e)
    | fail)

theorem Grows.generatePostfixExpression_nil {a g x g' : IRGenerator} [Ext g x] {left : Expression} {op : String}
    (h : Grows a g) (e : Irgen.generatePostfixExpression left op x = .ok (none, g')) : Strict a g' := by
  replace h : Grows a x := h.ext
  unfold Irgen.generatePostfixExpression at e
  try simp only [IRGenerator.NewAlloca, IRGenerator.NewLoad, IRGenerator.NewBin, IRGenerator.NewICmp, IRGenerator.NewFCmp, IRGenerator.NewGetElementPtr, IRGenerator.funcValue, NewCall_func, IRGenerator.NewCall, IRGenerator.NewZExt, IRGenerator.NewSelect, IRGenerator.NewBr, IRGenerator.NewCondBr, IRGenerator.NewRet, IRGenerator.NewUnreachable, IRGenerator.NewFunc, IRGenerator.NewGlobalDef] at e
  repeat' (first
    | (with_reducible first
        | (revert e; apply (hs.step ∘ ((Grows.refl _).NewInst)); done)
        | (revert e; apply (hs.step ∘ ((Grows.refl _).NewStore)); done)
        | (revert e; apply (hs.step ∘ ((Grows.refl _).NewTerm)); done)
        | (revert e; apply (hs.step ∘ ((Grows.refl _).NewBlock)); done)
        | (revert e; apply (hs.step ∘ ((Grows.refl _).generateExpression)); done)
        | (revert e; apply (hs.step ∘ ((Grows.refl _).appendPrologue)); done)
        | (revert e; apply (hs.step ∘ ((Grows.refl _).appendEpilogue)); done)
        | (revert e; apply (hs.step ∘ ((Grows.refl _).generateBoundsCheck)); done)
        | (revert e; apply (hs.step ∘ (Grows.appendElements (fun e _ => exprOK e) (Grows.refl _))); done)
        | (revert e; apply (hs.step ∘ (Grows.callArguments (fun e _ => exprOK e) (Grows.refl _))); done)
        | (revert e; apply (hs.step ∘ (Grows.printfArguments (fun e _ => exprOK e) (Grows.refl _))); done)
        | (revert e; apply (hs.step ∘ (Grows.arrayElements (fun e _ => exprOK e) (Grows.refl _))); done)
        | (revert e; apply (hs.step ∘ ((Grows.refl _).bindLiteralParameters)); done)
        | (revert e; apply (hs.step ∘ (Grows.generateBlockStatement (fun s _ => stmtOK s) (Grows.refl _))); done)
        | (revert e; apply (hs.step ∘ ((Grows.refl _).implicitReturn)); done)
        | (revert e; apply (hs.step ∘ ((Grows.refl _).brIfOpen)); done)
        | (revert e; apply (hs.step ∘ ((Grows.refl _).asResult)); done)
        | (revert e; apply (hs.step ∘ ((Grows.refl _).failWith)); done)
        | (revert e; apply (hs.step ∘ ((Grows.refl _).generateIdentifier)); done)
        | (revert e; apply (hs.step ∘ ((Grows.refl _).prefixOperator)); done)
        | (revert e; apply (hs.step ∘ ((Grows.refl _).generatePostfixExpression)); done)
        | (revert e; apply (hs.step ∘ ((Grows.refl _).generateStringConcatenation)); done)
        | (revert e; apply (hs.step ∘ ((Grows.refl _).infixOperator)); done)
        | (revert e; apply (hs.step ∘ ((Grows.refl _).indexAccess)); done)
        | (revert e; apply (hs.step ∘ ((Grows.refl _).lenOrCap)); done)
        | (revert e; apply (hs.step ∘ ((Grows.refl _).makeSlice)); done)
        | (revert e; apply (hs.step ∘ ((Grows.refl _).printfNoArguments)); done)
        | (revert e; apply (hs.step ∘ ((Grows.refl _).printfCall)); done)
        | (revert e; apply (hs.step ∘ (Grows.generateLenCall (fun e _ => exprOK e) (Grows.refl _))); done)
        | (revert e; apply (hs.step ∘ (Grows.generateCapCall (fun e _ => exprOK e) (Grows.refl _))); done)
        | (revert e; apply (hs.step ∘ (Grows.generateAppendCall (fun e _ => exprOK e) (Grows.refl _))); done)
        | (revert e; apply (hs.step ∘ (Grows.generateMakeCall (fun e _ => exprOK e) (Grows.refl _))); done)
        | (revert e; apply (hs.step ∘ (Grows.generateExitCall (fun e _ => exprOK e) (Grows.refl _))); done)
        | (revert e; apply (h.asResult_nil); done)
        | (revert e; apply (h.failWith_nil); done)
        | fail)
    | (apply stepWith e; (focus (with_reducible apply (@ite_ok _ _ _ _ _ _); done)); intro e2
       clear e
       rcases e2 with ⟨_, e⟩ | ⟨_, e⟩)
    | (simp only [bind_assoc, pure_bind] at e)
    | (rw [bind_ok] at e
       obtain ⟨⟨x1, g1⟩, e1, e⟩ := e
       try dsimp only at e
       first
         | (apply stepWith e1; (focus (with_reducible apply (hs.step ∘ ((Grows.refl _).NewInst)); done)); clear hs; intro hs)
         | (apply stepWith e1; (focus (with_reducible apply (hs.step ∘ ((Grows.refl _).NewStore)); done)); clear hs; intro hs)
         | (apply stepWith e1; (focus (with_reducible apply (hs.step ∘ ((Grows.refl _).NewTerm)); done)); clear hs; intro hs)
         | (apply stepWith e1; (focus (with_reducible apply (hs.step ∘ ((Grows.refl _).NewBlock)); done)); clear hs; intro hs)
         | (apply stepWith e1; (focus (with_reducible apply (hs.step ∘ ((Grows.refl _).generateExpression)); done)); clear hs; intro hs)
         | (apply stepWith e1; (focus (with_reducible apply (hs.step ∘ ((Grows.refl _).appendPrologue)); done)); clear hs; intro hs)
         | (apply stepWith e1; (focus (with_reducible apply (hs.step ∘ ((Grows.refl _).appendEpilogue)); done)); clear hs; intro hs)
         | (apply stepWith e1; (focus (with_reducible apply (hs.step ∘ ((Grows.refl _).generateBoundsCheck)); done)); clear hs; intro hs)
         | (apply stepWith e1; (focus (with_reducible apply (hs.step ∘ (Grows.appendElements (fun e _ => exprOK e) (Grows.refl _))); done)); clear hs; intro hs)
         | (apply stepWith e1; (focus (with_reducible apply (hs.step ∘ (Grows.callArguments (fun e _ => exprOK e) (Grows.refl _))); done)); clear hs; intro hs)
         | (apply stepWith e1; (focus (with_reducible apply (hs.step ∘ (Grows.printfArguments (fun e _ => exprOK e) (Grows.refl _))); done)); clear hs; intro hs)
         | (apply stepWith e1; (focus (with_reducible apply (hs.step ∘ (Grows.arrayElements (fun e _ => exprOK e) (Grows.refl _))); done)); clear hs; intro hs)
         | (apply stepWith e1; (focus (with_reducible apply (hs.step ∘ ((Grows.refl _).bindLiteralParameters)); done)); clear hs; intro hs)
         | (apply stepWith e1; (focus (with_reducible apply (hs.step ∘ (Grows.generateBlockStatement (fun s _ => stmtOK s) (Grows.refl _))); done)); clear hs; intro hs)
         | (apply stepWith e1; (focus (with_reducible apply (hs.step ∘ ((Grows.refl _).implicitReturn)); done)); clear hs; intro hs)
         | (apply stepWith e1; (focus (with_reducible apply (hs.step ∘ ((Grows.refl _).brIfOpen)); done)); clear hs; intro hs)
         | (apply stepWith e1; (focus (with_reducible apply (h.NewInst); done)); clear h; intro h)
         | (apply stepWith e1; (focus (with_reducible apply (h.NewStore); done)); clear h; intro h)
         | (apply stepWith e1; (focus (with_reducible apply (h.NewTerm); done)); clear h; intro h)
         | (apply stepWith e1; (focus (with_reducible apply (h.NewBlock); done)); clear h; intro h)
         | (apply stepWith e1; (focus (with_reducible apply (h.generateExpression); done)); clear h; intro h)
         | (apply stepWith e1; (focus (with_reducible apply (h.appendPrologue); done)); clear h; intro h)
         | (apply stepWith e1; (focus (with_reducible apply (h.appendEpilogue); done)); clear h; intro h)
         | (apply stepWith e1; (focus (with_reducible apply (h.generateBoundsCheck); done)); clear h; intro h)
         | (apply stepWith e1; (focus (with_reducible apply (Grows.appendElements (fun e _ => exprOK e) h); done)); clear h; intro h)
         | (apply stepWith e1; (focus (with_reducible apply (Grows.callArguments (fun e _ => exprOK e) h); done)); clear h; intro h)
         | (apply stepWith e1; (focus (with_reducible apply (Grows.printfArguments (fun e _ => exprOK e) h); done)); clear h; intro h)
         | (apply stepWith e1; (focus (with_reducible apply (Grows.arrayElements (fun e _ => exprOK e) h); done)); clear h; intro h)
         | (apply stepWith e1; (focus (with_reducible apply (h.bindLiteralParameters); done)); clear h; intro h)
         | (apply stepWith e1; (focus (with_reducible apply (Grows.generateBlockStatement (fun s _ => stmtOK s) h); done)); clear h; intro h)
         | (apply stepWith e1; (focus (with_reducible apply (h.implicitReturn); done)); clear h; intro h)
         | (apply stepWith e1; (focus (with_reducible apply (h.brIfOpen); done)); clear h; intro h)
         | (cases e1)
         | fail)
    | (split at e <;>
       try (rename_i heq
            first
              | (apply stepWith heq; (focus (with_reducible apply (hs.step ∘ ((Grows.refl _).getOrDeclare)); done)); clear hs; intro hs)
              | (apply stepWith heq; (focus (with_reducible apply (hs.step ∘ ((Grows.refl _).resolveCallee)); done)); clear hs; intro hs)
              | (apply stepWith heq; (focus (with_reducible apply (hs.step ∘ ((Grows.refl _).generateStringLiteral)); done)); clear hs; intro hs)
              | (apply stepWith heq; (focus (with_reducible apply (hs.step ∘ ((Grows.refl _).NewInst)); done)); clear hs; intro hs)
              | (apply stepWith heq; (focus (with_reducible apply (hs.step ∘ ((Grows.refl _).NewStore)); done)); clear hs; intro hs)
              | (apply stepWith heq; (focus (with_reducible apply (hs.step ∘ ((Grows.refl _).NewTerm)); done)); clear hs; intro hs)
              | (apply stepWith heq; (focus (with_reducible apply (hs.step ∘ ((Grows.refl _).NewBlock)); done)); clear hs; intro hs)
              | (apply stepWith heq; (focus (with_reducible apply (hs.step ∘ ((Grows.refl _).generateExpression)); done)); clear hs; intro hs)
              | (apply stepWith heq; (focus (with_reducible apply (hs.step ∘ ((Grows.refl _).appendPrologue)); done)); clear hs; intro hs)
              | (apply stepWith heq; (focus (with_reducible apply (hs.step ∘ ((Grows.refl _).appendEpilogue)); done)); clear hs; intro hs)
              | (apply stepWith heq; (focus (with_reducible apply (hs.step ∘ ((Grows.refl _).generateBoundsCheck)); done)); clear hs; intro hs)
              | (apply stepWith heq; (focus (with_reducible apply (hs.step ∘ (Grows.appendElements (fun e _ => exprOK e) (Grows.refl _))); done)); clear hs; intro hs)
              | (apply stepWith heq; (focus (with_reducible apply (hs.step ∘ (Grows.callArguments (fun e _ => exprOK e) (Grows.refl _))); done)); clear hs; intro hs)
              | (apply stepWith heq; (focus (with_reducible apply (hs.step ∘ (Grows.printfArguments (fun e _ => exprOK e) (Grows.refl _))); done)); clear hs; intro hs)
              | (apply stepWith heq; (focus (with_reducible apply (hs.step ∘ (Grows.arrayElements (fun e _ => exprOK e) (Grows.refl _))); done)); clear hs; intro hs)
              | (apply stepWith heq; (focus (with_reducible apply (hs.step ∘ ((Grows.refl _).bindLiteralParameters)); done)); clear hs; intro hs)
              | (apply stepWith heq; (focus (with_reducible apply (hs.step ∘ (Grows.generateBlockStatement (fun s _ => stmtOK s) (Grows.refl _))); done)); clear hs; intro hs)
              | (apply stepWith heq; (focus (with_reducible apply (hs.step ∘ ((Grows.refl _).implicitReturn)); done)); clear hs; intro hs)
              | (apply stepWith heq; (focus (with_reducible apply (hs.step ∘ ((Grows.refl _).brIfOpen)); done)); clear hs; intro hs)
              | (apply stepWith heq; (focus (with_reducible apply (h.getOrDeclare); done)); clear h; intro h)
              | (apply stepWith heq; (focus (with_reducible apply (h.resolveCallee); done)); clear h; intro h)
              | (apply stepWith heq; (focus (with_reducible apply (h.generateStringLiteral); done)); clear h; intro h)
              | (apply stepWith heq; (focus (with_reducible apply (h.NewInst); done)); clear h; intro h)
              | (apply stepWith heq; (focus (with_reducible apply (h.NewStore); done)); clear h; intro h)
              | (apply stepWith heq; (focus (with_reducible apply (h.NewTerm); done)); clear h; intro h)
              | (apply stepWith heq; (focus (with_reducible apply (h.NewBlock); done)); clear h; intro h)
              | (apply stepWith heq; (focus (with_reducible apply (h.generateExpression); done)); clear h; intro h)
              | (apply stepWith heq; (focus (with_reducible apply (h.appendPrologue); done)); clear h; intro h)
              | (apply stepWith heq; (focus (with_reducible apply (h.appendEpilogue); done)); clear h; intro h)
              | (apply stepWith heq; (focus (with_reducible apply (h.generateBoundsCheck); done)); clear h; intro h)
              | (apply stepWith heq; (focus (with_reducible apply (Grows.appendElements (fun e _ => exprOK e) h); done)); clear h; intro h)
              | (apply stepWith heq; (focus (with_reducible apply (Grows.callArguments (fun e _ => exprOK e) h); done)); clear h; intro h)
              | (apply stepWith heq; (focus (with_reducible apply (Grows.printfArguments (fun e _ => exprOK e) h); done)); clear h; intro h)
              | (apply stepWith heq; (focus (with_reducible apply (Grows.arrayElements (fun e _ => exprOK e) h); done)); clear h; intro h)
              | (apply stepWith heq; (focus (with_reducible apply (h.bindLiteralParameters); done)); clear h; intro h)
              | (apply stepWith heq; (focus (with_reducible apply (Grows.generateBlockStatement (fun s _ => stmtOK s) h); done)); clear h; intro h)
              | (apply stepWith heq; (focus (with_reducible apply (h.implicitReturn); done)); clear h; intro h)
              | (apply stepWith heq; (focus (with_reducible apply (h.brIfOpen); done)); clear h; intro h)
              | fail))
    | (cases e; first | done | exact hs.extend | exact h.report _ | fail)
    | (dsimp only at e)
    | fail)

theorem Grows.generateStringConcatenation_nil {a g x g' : IRGenerator} [Ext g x] {left right : Value}
    (h : Grows a g) (e : Irgen.generateStringConcatenation left right x = .ok (none, g')) : Strict a g' := by
  replace h : Grows a x := h.ext
  unfold Irgen.generateStringConcatenation at e
  try simp only [IRGenerator.NewAlloca, IRGenerator.NewLoad, IRGenerator.NewBin, IRGenerator.NewICmp, IRGenerator.NewFCmp, IRGenerator.NewGetElementPtr, IRGenerator.funcValue, NewCall_func, IRGenerator.NewCall, IRGenerator.NewZExt, IRGenerator.NewSelect, IRGenerator.NewBr, IRGenerator.NewCondBr, IRGenerator.NewRet, IRGenerator.NewUnreachable, IRGenerator.NewFunc, IRGenerator.NewGlobalDef] at e
  repeat' (first
    | (with_reducible first
        | (revert e; apply (hs.step ∘ ((Grows.refl _).NewInst)); done)
        | (revert e; apply (hs.step ∘ ((Grows.refl _).NewStore)); done)
        | (revert e; apply (hs.step ∘ ((Grows.refl _).NewTerm)); done)
        | (revert e; apply (hs.step ∘ ((Grows.refl _).NewBlock)); done)
        | (revert e; apply (hs.step ∘ ((Grows.refl _).generateExpression)); done)
        | (revert e; apply (hs.step ∘ ((Grows.refl _).appendPrologue)); done)
        | (revert e; apply (hs.step ∘ ((Grows.refl _).appendEpilogue)); done)
        | (revert e; apply (hs.step ∘ ((Grows.refl _).generateBoundsCheck)); done)
        | (revert e; apply (hs.step ∘ (Grows.appendElements (fun e _ => exprOK e) (Grows.refl _))); done)
        | (revert e; apply (hs.step ∘ (Grows.callArguments (fun e _ => exprOK e) (Grows.refl _))); done)
        | (revert e; apply (hs.step ∘ (Grows.printfArguments (fun e _ => exprOK e) (Grows.refl _))); done)
        | (revert e; apply (hs.step ∘ (Grows.arrayElements (fun e _ => exprOK e) (Grows.refl _))); done)
        | (revert e; apply (hs.step ∘ ((Grows.refl _).bindLiteralParameters)); done)
        | (revert e; apply (hs.step ∘ (Grows.generateBlockStatement (fun s _ => stmtOK s) (Grows.refl _))); done)
        | (revert e; apply (hs.step ∘ ((Grows.refl _).implicitReturn)); done)
        | (revert e; apply (hs.step ∘ ((Grows.refl _).brIfOpen)); done)
        | (revert e; apply (hs.step ∘ ((Grows.refl _).asResult)); done)
        | (revert e; apply (hs.step ∘ ((Grows.refl _).failWith)); done)
        | (revert e; apply (hs.step ∘ ((Grows.refl _).generateIdentifier)); done)
        | (revert e; apply (hs.step ∘ ((Grows.refl _).prefixOperator)); done)
        | (revert e; apply (hs.step ∘ ((Grows.refl _).generatePostfixExpression)); done)
        | (revert e; apply (hs.step ∘ ((Grows.refl _).generateStringConcatenation)); done)
        | (revert e; apply (hs.step ∘ ((Grows.refl _).infixOperator)); done)
        | (revert e; apply (hs.step ∘ ((Grows.refl _).indexAccess)); done)
        | (revert e; apply (hs.step ∘ ((Grows.refl _).lenOrCap)); done)
        | (revert e; apply (hs.step ∘ ((Grows.refl _).makeSlice)); done)
        | (revert e; apply (hs.step ∘ ((Grows.refl _).printfNoArguments)); done)
        | (revert e; apply (hs.step ∘ ((Grows.refl _).printfCall)); done)
        | (revert e; apply (hs.step ∘ (Grows.generateLenCall (fun e _ => exprOK e) (Grows.refl _))); done)
        | (revert e; apply (hs.step ∘ (Grows.generateCapCall (fun e _ => exprOK e) (Grows.refl _))); done)
        | (revert e; apply (hs.step ∘ (Grows.generateAppendCall (fun e _ => exprOK e) (Grows.refl _))); done)
        | (revert e; apply (hs.step ∘ (Grows.generateMakeCall (fun e _ => exprOK e) (Grows.refl _))); done)
        | (revert e; apply (hs.step ∘ (Grows.generateExitCall (fun e _ => exprOK e) (Grows.refl _))); done)
        | (revert e; apply (h.asResult_nil); done)
        | (revert e; apply (h.failWith_nil); done)
        | fail)
    | (apply stepWith e; (focus (with_reducible apply (@ite_ok _ _ _ _ _ _); done)); intro e2
       clear e
       rcases e2 with ⟨_, e⟩ | ⟨_, e⟩)
    | (simp only [bind_assoc, pure_bind] at e)
    | (rw [bind_ok] at e
       obtain ⟨⟨x1, g1⟩, e1, e⟩ := e
       try dsimp only at e
       first
         | (apply stepWith e1; (focus (with_reducible apply (hs.step ∘ ((Grows.refl _).NewInst)); done)); clear hs; intro hs)
         | (apply stepWith e1; (focus (with_reducible apply (hs.step ∘ ((Grows.refl _).NewStore)); done)); clear hs; intro hs)
         | (apply stepWith e1; (focus (with_reducible apply (hs.step ∘ ((Grows.refl _).NewTerm)); done)); clear hs; intro hs)
         | (apply stepWith e1; (focus (with_reducible apply (hs.step ∘ ((Grows.refl _).NewBlock)); done)); clear hs; intro hs)
         | (apply stepWith e1; (focus (with_reducible apply (hs.step ∘ ((Grows.refl _).generateExpression)); done)); clear hs; intro hs)
         | (apply stepWith e1; (focus (with_reducible apply (hs.step ∘ ((Grows.refl _).appendPrologue)); done)); clear hs; intro hs)
         | (apply stepWith e1; (focus (with_reducible apply (hs.step ∘ ((Grows.refl _).appendEpilogue)); done)); clear hs; intro hs)
         | (apply stepWith e1; (focus (with_reducible apply (hs.step ∘ ((Grows.refl _).generateBoundsCheck)); done)); clear hs; intro hs)
         | (apply stepWith e1; (focus (with_reducible apply (hs.step ∘ (Grows.appendElements (fun e _ => exprOK e) (Grows.refl _))); done)); clear hs; intro hs)
         | (apply stepWith e1; (focus (with_reducible apply (hs.step ∘ (Grows.callArguments (fun e _ => exprOK e) (Grows.refl _))); done)); clear hs; intro hs)
         | (apply stepWith e1; (focus (with_reducible apply (hs.step ∘ (Grows.printfArguments (fun e _ => exprOK e) (Grows.refl _))); done)); clear hs; intro hs)
         | (apply stepWith e1; (focus (with_reducible apply (hs.step ∘ (Grows.arrayElements (fun e _ => exprOK e) (Grows.refl _))); done)); clear hs; intro hs)
         | (apply stepWith e1; (focus (with_reducible apply (hs.step ∘ ((Grows.refl _).bindLiteralParameters)); done)); clear hs; intro hs)
         | (apply stepWith e1; (focus (with_reducible apply (hs.step ∘ (Grows.generateBlockStatement (fun s _ => stmtOK s) (Grows.refl _))); done)); clear hs; intro hs)
         | (apply stepWith e1; (focus (with_reducible apply (hs.step ∘ ((Grows.refl _).implicitReturn)); done)); clear hs; intro hs)
         | (apply stepWith e1; (focus (with_reducible apply (hs.step ∘ ((Grows.refl _).brIfOpen)); done)); clear hs; intro hs)
         | (apply stepWith e1; (focus (with_reducible apply (h.NewInst); done)); clear h; intro h)
         | (apply stepWith e1; (focus (with_reducible apply (h.NewStore); done)); clear h; intro h)
         | (apply stepWith e1; (focus (with_reducible apply (h.NewTerm); done)); clear h; intro h)
         | (apply stepWith e1; (focus (with_reducible apply (h.NewBlock); done)); clear h; intro h)
         | (apply stepWith e1; (focus (with_reducible apply (h.generateExpression); done)); clear h; intro h)
         | (apply stepWith e1; (focus (with_reducible apply (h.appendPrologue); done)); clear h; intro h)
         | (apply stepWith e1; (focus (with_reducible apply (h.appendEpilogue); done)); clear h; intro h)
         | (apply stepWith e1; (focus (with_reducible apply (h.generateBoundsCheck); done)); clear h; intro h)
         | (apply stepWith e1; (focus (with_reducible apply (Grows.appendElements (fun e _ => exprOK e) h); done)); clear h; intro h)
         | (apply stepWith e1; (focus (with_reducible apply (Grows.callArguments (fun e _ => exprOK e) h); done)); clear h; intro h)
         | (apply stepWith e1; (focus (with_reducible apply (Grows.printfArguments (fun e _ => exprOK e) h); done)); clear h; intro h)
         | (apply stepWith e1; (focus (with_reducible apply (Grows.arrayElements (fun e _ => exprOK e) h); done)); clear h; intro h)
         | (apply stepWith e1; (focus (with_reducible apply (h.bindLiteralParameters); done)); clear h; intro h)
         | (apply stepWith e1; (focus (with_reducible apply (Grows.generateBlockStatement (fun s _ => stmtOK s) h); done)); clear h; intro h)
         | (apply stepWith e1; (focus (with_reducible apply (h.implicitReturn); done)); clear h; intro h)
         | (apply stepWith e1; (focus (with_reducible apply (h.brIfOpen); done)); clear h; intro h)
         | (cases e1)
         | fail)
    | (split at e <;>
       try (rename_i heq
            first
              | (apply stepWith heq; (focus (with_reducible apply (hs.step ∘ ((Grows.refl _).getOrDeclare)); done)); clear hs; intro hs)
              | (apply stepWith heq; (focus (with_reducible apply (hs.step ∘ ((Grows.refl _).resolveCallee)); done)); clear hs; intro hs)
              | (apply stepWith heq; (focus (with_reducible apply (hs.step ∘ ((Grows.refl _).generateStringLiteral)); done)); clear hs; intro hs)
              | (apply stepWith heq; (focus (with_reducible apply (hs.step ∘ ((Grows.refl _).NewInst)); done)); clear hs; intro hs)
              | (apply stepWith heq; (focus (with_reducible apply (hs.step ∘ ((Grows.refl _).NewStore)); done)); clear hs; intro hs)
              | (apply stepWith heq; (focus (with_reducible apply (hs.step ∘ ((Grows.refl _).NewTerm)); done)); clear hs; intro hs)
              | (apply stepWith heq; (focus (with_reducible apply (hs.step ∘ ((Grows.refl _).NewBlock)); done)); clear hs; intro hs)
              | (apply stepWith heq; (focus (with_reducible apply (hs.step ∘ ((Grows.refl _).generateExpression)); done)); clear hs; intro hs)
              | (apply stepWith heq; (focus (with_reducible apply (hs.step ∘ ((Grows.refl _).appendPrologue)); done)); clear hs; intro hs)
              | (apply stepWith heq; (focus (with_reducible apply (hs.step ∘ ((Grows.refl _).appendEpilogue)); done)); clear hs; intro hs)
              | (apply stepWith heq; (focus (with_reducible apply (hs.step ∘ ((Grows.refl _).generateBoundsCheck)); done)); clear hs; intro hs)
              | (apply stepWith heq; (focus (with_reducible apply (hs.step ∘ (Grows.appendElements (fun e _ => exprOK e) (Grows.refl _))); done)); clear hs; intro hs)
              | (apply stepWith heq; (focus (with_reducible apply (hs.step ∘ (Grows.callArguments (fun e _ => exprOK e) (Grows.refl _))); done)); clear hs; intro hs)
              | (apply stepWith heq; (focus (with_reducible apply (hs.step ∘ (Grows.printfArguments (fun e _ => exprOK e) (Grows.refl _))); done)); clear hs; intro hs)
              | (apply stepWith heq; (focus (with_reducible apply (hs.step ∘ (Grows.arrayElements (fun e _ => exprOK e) (Grows.refl _))); done)); clear hs; intro hs)
              | (apply stepWith heq; (focus (with_reducible apply (hs.step ∘ ((Grows.refl _).bindLiteralParameters)); done)); clear hs; intro hs)
              | (apply stepWith heq; (focus (with_reducible apply (hs.step ∘ (Grows.generateBlockStatement (fun s _ => stmtOK s) (Grows.refl _))); done)); clear hs; intro hs)
              | (apply stepWith heq; (focus (with_reducible apply (hs.step ∘ ((Grows.refl _).implicitReturn)); done)); clear hs; intro hs)
              | (apply stepWith heq; (focus (with_reducible apply (hs.step ∘ ((Grows.refl _).brIfOpen)); done)); clear hs; intro hs)
              | (apply stepWith heq; (focus (with_reducible apply (h.getOrDeclare); done)); clear h; intro h)
              | (apply stepWith heq; (focus (with_reducible apply (h.resolveCallee); done)); clear h; intro h)
              | (apply stepWith heq; (focus (with_reducible apply (h.generateStringLiteral); done)); clear h; intro h)
              | (apply stepWith heq; (focus (with_reducible apply (h.NewInst); done)); clear h; intro h)
              | (apply stepWith heq; (focus (with_reducible apply (h.NewStore); done)); clear h; intro h)
              | (apply stepWith heq; (focus (with_reducible apply (h.NewTerm); done)); clear h; intro h)
              | (apply stepWith heq; (focus (with_reducible apply (h.NewBlock); done)); clear h; intro h)
              | (apply stepWith heq; (focus (with_reducible apply (h.generateExpression); done)); clear h; intro h)
              | (apply stepWith heq; (focus (with_reducible apply (h.appendPrologue); done)); clear h; intro h)
              | (apply stepWith heq; (focus (with_reducible apply (h.appendEpilogue); done)); clear h; intro h)
              | (apply stepWith heq; (focus (with_reducible apply (h.generateBoundsCheck); done)); clear h; intro h)
              | (apply stepWith heq; (focus (with_reducible apply (Grows.appendElements (fun e _ => exprOK e) h); done)); clear h; intro h)
              | (apply stepWith heq; (focus (with_reducible apply (Grows.callArguments (fun e _ => exprOK e) h); done)); clear h; intro h)
              | (apply stepWith heq; (focus (with_reducible apply (Grows.printfArguments (fun e _ => exprOK e) h); done)); clear h; intro h)
              | (apply stepWith heq; (focus (with_reducible apply (Grows.arrayElements (fun e _ => exprOK e) h); done)); clear h; intro h)
              | (apply stepWith heq; (focus (with_reducible apply (h.bindLiteralParameters); done)); clear h; intro h)
              | (apply stepWith heq; (focus (with_reducible apply (Grows.generateBlockStatement (fun s _ => stmtOK s) h); done)); clear h; intro h)
              | (apply stepWith heq; (focus (with_reducible apply (h.implicitReturn); done)); clear h; intro h)
              | (apply stepWith heq; (focus (with_reducible apply (h.brIfOpen); done)); clear h; intro h)
              | fail))
    | (cases e; first | done | exact hs.extend | exact h.report _ | fail)
    | (dsimp only at e)
    | fail)

theorem Grows.infixOperator_nil {a g x g' : IRGenerator} [Ext g x] {leftExpr : Expression} {op : String} {left right : Value}
    (h : Grows a g) (e : Irgen.infixOperator leftExpr op left right x = .ok (none, g')) : Strict a g' := by
  replace h : Grows a x := h.ext
  unfold Irgen.infixOperator at e
  try simp only [IRGenerator.NewAlloca, IRGenerator.NewLoad, IRGenerator.NewBin, IRGenerator.NewICmp, IRGenerator.NewFCmp, IRGenerator.NewGetElementPtr, IRGenerator.funcValue, NewCall_func, IRGenerator.NewCall, IRGenerator.NewZExt, IRGenerator.NewSelect, IRGenerator.NewBr, IRGenerator.NewCondBr, IRGenerator.NewRet, IRGenerator.NewUnreachable, IRGenerator.NewFunc, IRGenerator.NewGlobalDef] at e
  repeat' (first
    | (with_reducible first
        | (revert e; apply (hs.step ∘ ((Grows.refl _).NewInst)); done)
        | (revert e; apply (hs.step ∘ ((Grows.refl _).NewStore)); done)
        | (revert e; apply (hs.step ∘ ((Grows.refl _).NewTerm)); done)
        | (revert e; apply (hs.step ∘ ((Grows.refl _).NewBlock)); done)
        | (revert e; apply (hs.step ∘ ((Grows.refl _).generateExpression)); done)
        | (revert e; apply (hs.step ∘ ((Grows.refl _).appendPrologue)); done)
        | (revert e; apply (hs.step ∘ ((Grows.refl _).appendEpilogue)); done)
        | (revert e; apply (hs.step ∘ ((Grows.refl _).generateBoundsCheck)); done)
        | (revert e; apply (hs.step ∘ (Grows.appendElements (fun e _ => exprOK e) (Grows.refl _))); done)
        | (revert e; apply (hs.step ∘ (Grows.callArguments (fun e _ => exprOK e) (Grows.refl _))); done)
        | (revert e; apply (hs.step ∘ (Grows.printfArguments (fun e _ => exprOK e) (Grows.refl _))); done)
        | (revert e; apply (hs.step ∘ (Grows.arrayElements (fun e _ => exprOK e) (Grows.refl _))); done)
        | (revert e; apply (hs.step ∘ ((Grows.refl _).bindLiteralParameters)); done)
        | (revert e; apply (hs.step ∘ (Grows.generateBlockStatement (fun s _ => stmtOK s) (Grows.refl _))); done)
        | (revert e; apply (hs.step ∘ ((Grows.refl _).implicitReturn)); done)
        | (revert e; apply (hs.step ∘ ((Grows.refl _).brIfOpen)); done)
        | (revert e; apply (hs.step ∘ ((Grows.refl _).asResult)); done)
        | (revert e; apply (hs.step ∘ ((Grows.refl _).failWith)); done)
        | (revert e; apply (hs.step ∘ ((Grows.refl _).generateIdentifier)); done)
        | (revert e; apply (hs.step ∘ ((Grows.refl _).prefixOperator)); done)
        | (revert e; apply (hs.step ∘ ((Grows.refl _).generatePostfixExpression)); done)
        | (revert e; apply (hs.step ∘ ((Grows.refl _).generateStringConcatenation)); done)
        | (revert e; apply (hs.step ∘ ((Grows.refl _).infixOperator)); done)
        | (revert e; apply (hs.step ∘ ((Grows.refl _).indexAccess)); done)
        | (revert e; apply (hs.step ∘ ((Grows.refl _).lenOrCap)); done)
        | (revert e; apply (hs.step ∘ ((Grows.refl _).makeSlice)); done)
        | (revert e; apply (hs.step ∘ ((Grows.refl _).printfNoArguments)); done)
        | (revert e; apply (hs.step ∘ ((Grows.refl _).printfCall)); done)
        | (revert e; apply (hs.step ∘ (Grows.generateLenCall (fun e _ => exprOK e) (Grows.refl _))); done)
        | (revert e; apply (hs.step ∘ (Grows.generateCapCall (fun e _ => exprOK e) (Grows.refl _))); done)
        | (revert e; apply (hs.step ∘ (Grows.generateAppendCall (fun e _ => exprOK e) (Grows.refl _))); done)
        | (revert e; apply (hs.step ∘ (Grows.generateMakeCall (fun e _ => exprOK e) (Grows.refl _))); done)
        | (revert e; apply (hs.step ∘ (Grows.generateExitCall (fun e _ => exprOK e) (Grows.refl _))); done)
        | (revert e; apply (h.asResult_nil); done)
        | (revert e; apply (h.failWith_nil); done)
        | (revert e; apply (h.generateStringConcatenation_nil); done)
        | fail)
    | (apply stepWith e; (focus (with_reducible apply (@ite_ok _ _ _ _ _ _); done)); intro e2
       clear e
       rcases e2 with ⟨_, e⟩ | ⟨_, e⟩)
    | (simp only [bind_assoc, pure_bind] at e)
    | (rw [bind_ok] at e
       obtain ⟨⟨x1, g1⟩, e1, e⟩ := e
       try dsimp only at e
       first
         | (apply stepWith e1; (focus (with_reducible apply (hs.step ∘ ((Grows.refl _).NewInst)); done)); clear hs; intro hs)
         | (apply stepWith e1; (focus (with_reducible apply (hs.step ∘ ((Grows.refl _).NewStore)); done)); clear hs; intro hs)
         | (apply stepWith e1; (focus (with_reducible apply (hs.step ∘ ((Grows.refl _).NewTerm)); done)); clear hs; intro hs)
         | (apply stepWith e1; (focus (with_reducible apply (hs.step ∘ ((Grows.refl _).NewBlock)); done)); clear hs; intro hs)
         | (apply stepWith e1; (focus (with_reducible apply (hs.step ∘ ((Grows.refl _).generateExpression)); done)); clear hs; intro hs)
         | (apply stepWith e1; (focus (with_reducible apply (hs.step ∘ ((Grows.refl _).appendPrologue)); done)); clear hs; intro hs)
         | (apply stepWith e1; (focus (with_reducible apply (hs.step ∘ ((Grows.refl _).appendEpilogue)); done)); clear hs; intro hs)
         | (apply stepWith e1; (focus (with_reducible apply (hs.step ∘ ((Grows.refl _).generateBoundsCheck)); done)); clear hs; intro hs)
         | (apply stepWith e1; (focus (with_reducible apply (hs.step ∘ (Grows.appendElements (fun e _ => exprOK e) (Grows.refl _))); done)); clear hs; intro hs)
         | (apply stepWith e1; (focus (with_reducible apply (hs.step ∘ (Grows.callArguments (fun e _ => exprOK e) (Grows.refl _))); done)); clear hs; intro hs)
         | (apply stepWith e1; (focus (with_reducible apply (hs.step ∘ (Grows.printfArguments (fun e _ => exprOK e) (Grows.refl _))); done)); clear hs; intro hs)
         | (apply stepWith e1; (focus (with_reducible apply (hs.step ∘ (Grows.arrayElements (fun e _ => exprOK e) (Grows.refl _))); done)); clear hs; intro hs)
         | (apply stepWith e1; (focus (with_reducible apply (hs.step ∘ ((Grows.refl _).bindLiteralParameters)); done)); clear hs; intro hs)
         | (apply stepWith e1; (focus (with_reducible apply (hs.step ∘ (Grows.generateBlockStatement (fun s _ => stmtOK s) (Grows.refl _))); done)); clear hs; intro hs)
         | (apply stepWith e1; (focus (with_reducible apply (hs.step ∘ ((Grows.refl _).implicitReturn)); done)); clear hs; intro hs)
         | (apply stepWith e1; (focus (with_reducible apply (hs.step ∘ ((Grows.refl _).brIfOpen)); done)); clear hs; intro hs)
         | (apply stepWith e1; (focus (with_reducible apply (h.NewInst); done)); clear h; intro h)
         | (apply stepWith e1; (focus (with_reducible apply (h.NewStore); done)); clear h; intro h)
         | (apply stepWith e1; (focus (with_reducible apply (h.NewTerm); done)); clear h; intro h)
         | (apply stepWith e1; (focus (with_reducible apply (h.NewBlock); done)); clear h; intro h)
         | (apply stepWith e1; (focus (with_reducible apply (h.generateExpression); done)); clear h; intro h)
         | (apply stepWith e1; (focus (with_reducible apply (h.appendPrologue); done)); clear h; intro h)
         | (apply stepWith e1; (focus (with_reducible apply (h.appendEpilogue); done)); clear h; intro h)
         | (apply stepWith e1; (focus (with_reducible apply (h.generateBoundsCheck); done)); clear h; intro h)
         | (apply stepWith e1; (focus (with_reducible apply (Grows.appendElements (fun e _ => exprOK e) h); done)); clear h; intro h)
         | (apply stepWith e1; (focus (with_reducible apply (Grows.callArguments (fun e _ => exprOK e) h); done)); clear h; intro h)
         | (apply stepWith e1; (focus (with_reducible apply (Grows.printfArguments (fun e _ => exprOK e) h); done)); clear h; intro h)
         | (apply stepWith e1; (focus (with_reducible apply (Grows.arrayElements (fun e _ => exprOK e) h); done)); clear h; intro h)
         | (apply stepWith e1; (focus (with_reducible apply (h.bindLiteralParameters); done)); clear h; intro h)
         | (apply stepWith e1; (focus (with_reducible apply (Grows.generateBlockStatement (fun s _ => stmtOK s) h); done)); clear h; intro h)
         | (apply stepWith e1; (focus (with_reducible apply (h.implicitReturn); done)); clear h; intro h)
         | (apply stepWith e1; (focus (with_reducible apply (h.brIfOpen); done)); clear h; intro h)
         | (cases e1)
         | fail)
    | (split at e <;>
       try (rename_i heq
            first
              | (apply stepWith heq; (focus (with_reducible apply (hs.step ∘ ((Grows.refl _).getOrDeclare)); done)); clear hs; intro hs)
              | (apply stepWith heq; (focus (with_reducible apply (hs.step ∘ ((Grows.refl _).resolveCallee)); done)); clear hs; intro hs)
              | (apply stepWith heq; (focus (with_reducible apply (hs.step ∘ ((Grows.refl _).generateStringLiteral)); done)); clear hs; intro hs)
              | (apply stepWith heq; (focus (with_reducible apply (hs.step ∘ ((Grows.refl _).NewInst)); done)); clear hs; intro hs)
              | (apply stepWith heq; (focus (with_reducible apply (hs.step ∘ ((Grows.refl _).NewStore)); done)); clear hs; intro hs)
              | (apply stepWith heq; (focus (with_reducible apply (hs.step ∘ ((Grows.refl _).NewTerm)); done)); clear hs; intro hs)
              | (apply stepWith heq; (focus (with_reducible apply (hs.step ∘ ((Grows.refl _).NewBlock)); done)); clear hs; intro hs)
              | (apply stepWith heq; (focus (with_reducible apply (hs.step ∘ ((Grows.refl _).generateExpression)); done)); clear hs; intro hs)
              | (apply stepWith heq; (focus (with_reducible apply (hs.step ∘ ((Grows.refl _).appendPrologue)); done)); clear hs; intro hs)
              | (apply stepWith heq; (focus (with_reducible apply (hs.step ∘ ((Grows.refl _).appendEpilogue)); done)); clear hs; intro hs)
              | (apply stepWith heq; (focus (with_reducible apply (hs.step ∘ ((Grows.refl _).generateBoundsCheck)); done)); clear hs; intro hs)
              | (apply stepWith heq; (focus (with_reducible apply (hs.step ∘ (Grows.appendElements (fun e _ => exprOK e) (Grows.refl _))); done)); clear hs; intro hs)
              | (apply stepWith heq; (focus (with_reducible apply (hs.step ∘ (Grows.callArguments (fun e _ => exprOK e) (Grows.refl _))); done)); clear hs; intro hs)
              | (apply stepWith heq; (focus (with_reducible apply (hs.step ∘ (Grows.printfArguments (fun e _ => exprOK e) (Grows.refl _))); done)); clear hs; intro hs)
              | (apply stepWith heq; (focus (with_reducible apply (hs.step ∘ (Grows.arrayElements (fun e _ => exprOK e) (Grows.refl _))); done)); clear hs; intro hs)
              | (apply stepWith heq; (focus (with_reducible apply (hs.step ∘ ((Grows.refl _).bindLiteralParameters)); done)); clear hs; intro hs)
              | (apply stepWith heq; (focus (with_reducible apply (hs.step ∘ (Grows.generateBlockStatement (fun s _ => stmtOK s) (Grows.refl _))); done)); clear hs; intro hs)
              | (apply stepWith heq; (focus (with_reducible apply (hs.step ∘ ((Grows.refl _).implicitReturn)); done)); clear hs; intro hs)
              | (apply stepWith heq; (focus (with_reducible apply (hs.step ∘ ((Grows.refl _).brIfOpen)); done)); clear hs; intro hs)
              | (apply stepWith heq; (focus (with_reducible apply (h.getOrDeclare); done)); clear h; intro h)
              | (apply stepWith heq; (focus (with_reducible apply (h.resolveCallee); done)); clear h; intro h)
              | (apply stepWith heq; (focus (with_reducible apply (h.generateStringLiteral); done)); clear h; intro h)
              | (apply stepWith heq; (focus (with_reducible apply (h.NewInst); done)); clear h; intro h)
              | (apply stepWith heq; (focus (with_reducible apply (h.NewStore); done)); clear h; intro h)
              | (apply stepWith heq; (focus (with_reducible apply (h.NewTerm); done)); clear h; intro h)
              | (apply stepWith heq; (focus (with_reducible apply (h.NewBlock); done)); clear h; intro h)
              | (apply stepWith heq; (focus (with_reducible apply (h.generateExpression); done)); clear h; intro h)
              | (apply stepWith heq; (focus (with_reducible apply (h.appendPrologue); done)); clear h; intro h)
              | (apply stepWith heq; (focus (with_reducible apply (h.appendEpilogue); done)); clear h; intro h)
              | (apply stepWith heq; (focus (with_reducible apply (h.generateBoundsCheck); done)); clear h; intro h)
              | (apply stepWith heq; (focus (with_reducible apply (Grows.appendElements (fun e _ => exprOK e) h); done)); clear h; intro h)
              | (apply stepWith heq; (focus (with_reducible apply (Grows.callArguments (fun e _ => exprOK e) h); done)); clear h; intro h)
              | (apply stepWith heq; (focus (with_reducible apply (Grows.printfArguments (fun e _ => exprOK e) h); done)); clear h; intro h)
              | (apply stepWith heq; (focus (with_reducible apply (Grows.arrayElements (fun e _ => exprOK e) h); done)); clear h; intro h)
              | (apply stepWith heq; (focus (with_reducible apply (h.bindLiteralParameters); done)); clear h; intro h)
              | (apply stepWith heq; (focus (with_reducible apply (Grows.generateBlockStatement (fun s _ => stmtOK s) h); done)); clear h; intro h)
              | (apply stepWith heq; (focus (with_reducible apply (h.implicitReturn); done)); clear h; intro h)
              | (apply stepWith heq; (focus (with_reducible apply (h.brIfOpen); done)); clear h; intro h)
              | fail))
    | (cases e; first | done | exact hs.extend | exact h.report _ | fail)
    | (dsimp only at e)
    | fail)

theorem Grows.indexAccess_nil {a g x g' : IRGenerator} [Ext g x] {arrayValue indexValue : Value}
    (h : Grows a g) (e : Irgen.indexAccess arrayValue indexValue x = .ok (none, g')) : Strict a g' := by
  replace h : Grows a x := h.ext
  unfold Irgen.indexAccess at e
  try simp only [IRGenerator.NewAlloca, IRGenerator.NewLoad, IRGenerator.NewBin, IRGenerator.NewICmp, IRGenerator.NewFCmp, IRGenerator.NewGetElementPtr, IRGenerator.funcValue, NewCall_func, IRGenerator.NewCall, IRGenerator.NewZExt, IRGenerator.NewSelect, IRGenerator.NewBr, IRGenerator.NewCondBr, IRGenerator.NewRet, IRGenerator.NewUnreachable, IRGenerator.NewFunc, IRGenerator.NewGlobalDef] at e
  repeat' (first
    | (with_reducible first
        | (revert e; apply (hs.step ∘ ((Grows.refl _).NewInst)); done)
        | (revert e; apply (hs.step ∘ ((Grows.refl _).NewStore)); done)
        | (revert e; apply (hs.step ∘ ((Grows.refl _).NewTerm)); done)
        | (revert e; apply (hs.step ∘ ((Grows.refl _).NewBlock)); done)
        | (revert e; apply (hs.step ∘ ((Grows.refl _).generateExpression)); done)
        | (revert e; apply (hs.step ∘ ((Grows.refl _).appendPrologue)); done)
        | (revert e; apply (hs.step ∘ ((Grows.refl _).appendEpilogue)); done)
        | (revert e; apply (hs.step ∘ ((Grows.refl _).generateBoundsCheck)); done)
        | (revert e; apply (hs.step ∘ (Grows.appendElements (fun e _ => exprOK e) (Grows.refl _))); done)
        | (revert e; apply (hs.step ∘ (Grows.callArguments (fun e _ => exprOK e) (Grows.refl _))); done)
        | (revert e; apply (hs.step ∘ (Grows.printfArguments (fun e _ => exprOK e) (Grows.refl _))); done)
        | (revert e; apply (hs.step ∘ (Grows.arrayElements (fun e _ => exprOK e) (Grows.refl _))); done)
        | (revert e; apply (hs.step ∘ ((Grows.refl _).bindLiteralParameters)); done)
        | (revert e; apply (hs.step ∘ (Grows.generateBlockStatement (fun s _ => stmtOK s) (Grows.refl _))); done)
        | (revert e; apply (hs.step ∘ ((Grows.refl _).implicitReturn)); done)
        | (revert e; apply (hs.step ∘ ((Grows.refl _).brIfOpen)); done)
        | (revert e; apply (hs.step ∘ ((Grows.refl _).asResult)); done)
        | (revert e; apply (hs.step ∘ ((Grows.refl _).failWith)); done)
        | (revert e; apply (hs.step ∘ ((Grows.refl _).generateIdentifier)); done)
        | (revert e; apply (hs.step ∘ ((Grows.refl _).prefixOperator)); done)
        | (revert e; apply (hs.step ∘ ((Grows.refl _).generatePostfixExpression)); done)
        | (revert e; apply (hs.step ∘ ((Grows.refl _).generateStringConcatenation)); done)
        | (revert e; apply (hs.step ∘ ((Grows.refl _).infixOperator)); done)
        | (revert e; apply (hs.step ∘ ((Grows.refl _).indexAccess)); done)
        | (revert e; apply (hs.step ∘ ((Grows.refl _).lenOrCap)); done)
        | (revert e; apply (hs.step ∘ ((Grows.refl _).makeSlice)); done)
        | (revert e; apply (hs.step ∘ ((Grows.refl _).printfNoArguments)); done)
        | (revert e; apply (hs.step ∘ ((Grows.refl _).printfCall)); done)
        | (revert e; apply (hs.step ∘ (Grows.generateLenCall (fun e _ => exprOK e) (Grows.refl _))); done)
        | (revert e; apply (hs.step ∘ (Grows.generateCapCall (fun e _ => exprOK e) (Grows.refl _))); done)
        | (revert e; apply (hs.step ∘ (Grows.generateAppendCall (fun e _ => exprOK e) (Grows.refl _))); done)
        | (revert e; apply (hs.step ∘ (Grows.generateMakeCall (fun e _ => exprOK e) (Grows.refl _))); done)
        | (revert e; apply (hs.step ∘ (Grows.generateExitCall (fun e _ => exprOK e) (Grows.refl _))); done)
        | (revert e; apply (h.asResult_nil); done)
        | (revert e; apply (h.failWith_nil); done)
        | fail)
    | (apply stepWith e; (focus (with_reducible apply (@ite_ok _ _ _ _ _ _); done)); intro e2
       clear e
       rcases e2 with ⟨_, e⟩ | ⟨_, e⟩)
    | (simp only [bind_assoc, pure_bind] at e)
    | (rw [bind_ok] at e
       obtain ⟨⟨x1, g1⟩, e1, e⟩ := e
       try dsimp only at e
       first
         | (apply stepWith e1; (focus (with_reducible apply (hs.step ∘ ((Grows.refl _).NewInst)); done)); clear hs; intro hs)
         | (apply stepWith e1; (focus (with_reducible apply (hs.step ∘ ((Grows.refl _).NewStore)); done)); clear hs; intro hs)
         | (apply stepWith e1; (focus (with_reducible apply (hs.step ∘ ((Grows.refl _).NewTerm)); done)); clear hs; intro hs)
         | (apply stepWith e1; (focus (with_reducible apply (hs.step ∘ ((Grows.refl _).NewBlock)); done)); clear hs; intro hs)
         | (apply stepWith e1; (focus (with_reducible apply (hs.step ∘ ((Grows.refl _).generateExpression)); done)); clear hs; intro hs)
         | (apply stepWith e1; (focus (with_reducible apply (hs.step ∘ ((Grows.refl _).appendPrologue)); done)); clear hs; intro hs)
         | (apply stepWith e1; (focus (with_reducible apply (hs.step ∘ ((Grows.refl _).appendEpilogue)); done)); clear hs; intro hs)
         | (apply stepWith e1; (focus (with_reducible apply (hs.step ∘ ((Grows.refl _).generateBoundsCheck)); done)); clear hs; intro hs)
         | (apply stepWith e1; (focus (with_reducible apply (hs.step ∘ (Grows.appendElements (fun e _ => exprOK e) (Grows.refl _))); done)); clear hs; intro hs)
         | (apply stepWith e1; (focus (with_reducible apply (hs.step ∘ (Grows.callArguments (fun e _ => exprOK e) (Grows.refl _))); done)); clear hs; intro hs)
         | (apply stepWith e1; (focus (with_reducible apply (hs.step ∘ (Grows.printfArguments (fun e _ => exprOK e) (Grows.refl _))); done)); clear hs; intro hs)
         | (apply stepWith e1; (focus (with_reducible apply (hs.step ∘ (Grows.arrayElements (fun e _ => exprOK e) (Grows.refl _))); done)); clear hs; intro hs)
         | (apply stepWith e1; (focus (with_reducible apply (hs.step ∘ ((Grows.refl _).bindLiteralParameters)); done)); clear hs; intro hs)
         | (apply stepWith e1; (focus (with_reducible apply (hs.step ∘ (Grows.generateBlockStatement (fun s _ => stmtOK s) (Grows.refl _))); done)); clear hs; intro hs)
         | (apply stepWith e1; (focus (with_reducible apply (hs.step ∘ ((Grows.refl _).implicitReturn)); done)); clear hs; intro hs)
         | (apply stepWith e1; (focus (with_reducible apply (hs.step ∘ ((Grows.refl _).brIfOpen)); done)); clear hs; intro hs)
         | (apply stepWith e1; (focus (with_reducible apply (h.NewInst); done)); clear h; intro h)
         | (apply stepWith e1; (focus (with_reducible apply (h.NewStore); done)); clear h; intro h)
         | (apply stepWith e1; (focus (with_reducible apply (h.NewTerm); done)); clear h; intro h)
         | (apply stepWith e1; (focus (with_reducible apply (h.NewBlock); done)); clear h; intro h)
         | (apply stepWith e1; (focus (with_reducible apply (h.generateExpression); done)); clear h; intro h)
         | (apply stepWith e1; (focus (with_reducible apply (h.appendPrologue); done)); clear h; intro h)
         | (apply stepWith e1; (focus (with_reducible apply (h.appendEpilogue); done)); clear h; intro h)
         | (apply stepWith e1; (focus (with_reducible apply (h.generateBoundsCheck); done)); clear h; intro h)
         | (apply stepWith e1; (focus (with_reducible apply (Grows.appendElements (fun e _ => exprOK e) h); done)); clear h; intro h)
         | (apply stepWith e1; (focus (with_reducible apply (Grows.callArguments (fun e _ => exprOK e) h); done)); clear h; intro h)
         | (apply stepWith e1; (focus (with_reducible apply (Grows.printfArguments (fun e _ => exprOK e) h); done)); clear h; intro h)
         | (apply stepWith e1; (focus (with_reducible apply (Grows.arrayElements (fun e _ => exprOK e) h); done)); clear h; intro h)
         | (apply stepWith e1; (focus (with_reducible apply (h.bindLiteralParameters); done)); clear h; intro h)
         | (apply stepWith e1; (focus (with_reducible apply (Grows.generateBlockStatement (fun s _ => stmtOK s) h); done)); clear h; intro h)
         | (apply stepWith e1; (focus (with_reducible apply (h.implicitReturn); done)); clear h; intro h)
         | (apply stepWith e1; (focus (with_reducible apply (h.brIfOpen); done)); clear h; intro h)
         | (cases e1)
         | fail)
    | (split at e <;>
       try (rename_i heq
            first
              | (apply stepWith heq; (focus (with_reducible apply (hs.step ∘ ((Grows.refl _).getOrDeclare)); done)); clear hs; intro hs)
              | (apply stepWith heq; (focus (with_reducible apply (hs.step ∘ ((Grows.refl _).resolveCallee)); done)); clear hs; intro hs)
              | (apply stepWith heq; (focus (with_reducible apply (hs.step ∘ ((Grows.refl _).generateStringLiteral)); done)); clear hs; intro hs)
              | (apply stepWith heq; (focus (with_reducible apply (hs.step ∘ ((Grows.refl _).NewInst)); done)); clear hs; intro hs)
              | (apply stepWith heq; (focus (with_reducible apply (hs.step ∘ ((Grows.refl _).NewStore)); done)); clear hs; intro hs)
              | (apply stepWith heq; (focus (with_reducible apply (hs.step ∘ ((Grows.refl _).NewTerm)); done)); clear hs; intro hs)
              | (apply stepWith heq; (focus (with_reducible apply (hs.step ∘ ((Grows.refl _).NewBlock)); done)); clear hs; intro hs)
              | (apply stepWith heq; (focus (with_reducible apply (hs.step ∘ ((Grows.refl _).generateExpression)); done)); clear hs; intro hs)
              | (apply stepWith heq; (focus (with_reducible apply (hs.step ∘ ((Grows.refl _).appendPrologue)); done)); clear hs; intro hs)
              | (apply stepWith heq; (focus (with_reducible apply (hs.step ∘ ((Grows.refl _).appendEpilogue)); done)); clear hs; intro hs)
              | (apply stepWith heq; (focus (with_reducible apply (hs.step ∘ ((Grows.refl _).generateBoundsCheck)); done)); clear hs; intro hs)
              | (apply stepWith heq; (focus (with_reducible apply (hs.step ∘ (Grows.appendElements (fun e _ => exprOK e) (Grows.refl _))); done)); clear hs; intro hs)
              | (apply stepWith heq; (focus (with_reducible apply (hs.step ∘ (Grows.callArguments (fun e _ => exprOK e) (Grows.refl _))); done)); clear hs; intro hs)
              | (apply stepWith heq; (focus (with_reducible apply (hs.step ∘ (Grows.printfArguments (fun e _ => exprOK e) (Grows.refl _))); done)); clear hs; intro hs)
              | (apply stepWith heq; (focus (with_reducible apply (hs.step ∘ (Grows.arrayElements (fun e _ => exprOK e) (Grows.refl _))); done)); clear hs; intro hs)
              | (apply stepWith heq; (focus (with_reducible apply (hs.step ∘ ((Grows.refl _).bindLiteralParameters)); done)); clear hs; intro hs)
              | (apply stepWith heq; (focus (with_reducible apply (hs.step ∘ (Grows.generateBlockStatement (fun s _ => stmtOK s) (Grows.refl _))); done)); clear hs; intro hs)
              | (apply stepWith heq; (focus (with_reducible apply (hs.step ∘ ((Grows.refl _).implicitReturn)); done)); clear hs; intro hs)
              | (apply stepWith heq; (focus (with_reducible apply (hs.step ∘ ((Grows.refl _).brIfOpen)); done)); clear hs; intro hs)
              | (apply stepWith heq; (focus (with_reducible apply (h.getOrDeclare); done)); clear h; intro h)
              | (apply stepWith heq; (focus (with_reducible apply (h.resolveCallee); done)); clear h; intro h)
              | (apply stepWith heq; (focus (with_reducible apply (h.generateStringLiteral); done)); clear h; intro h)
              | (apply stepWith heq; (focus (with_reducible apply (h.NewInst); done)); clear h; intro h)
              | (apply stepWith heq; (focus (with_reducible apply (h.NewStore); done)); clear h; intro h)
              | (apply stepWith heq; (focus (with_reducible apply (h.NewTerm); done)); clear h; intro h)
              | (apply stepWith heq; (focus (with_reducible apply (h.NewBlock); done)); clear h; intro h)
              | (apply stepWith heq; (focus (with_reducible apply (h.generateExpression); done)); clear h; intro h)
              | (apply stepWith heq; (focus (with_reducible apply (h.appendPrologue); done)); clear h; intro h)
              | (apply stepWith heq; (focus (with_reducible apply (h.appendEpilogue); done)); clear h; intro h)
              | (apply stepWith heq; (focus (with_reducible apply (h.generateBoundsCheck); done)); clear h; intro h)
              | (apply stepWith heq; (focus (with_reducible apply (Grows.appendElements (fun e _ => exprOK e) h); done)); clear h; intro h)
              | (apply stepWith heq; (focus (with_reducible apply (Grows.callArguments (fun e _ => exprOK e) h); done)); clear h; intro h)
              | (apply stepWith heq; (focus (with_reducible apply (Grows.printfArguments (fun e _ => exprOK e) h); done)); clear h; intro h)
              | (apply stepWith heq; (focus (with_reducible apply (Grows.arrayElements (fun e _ => exprOK e) h); done)); clear h; intro h)
              | (apply stepWith heq; (focus (with_reducible apply (h.bindLiteralParameters); done)); clear h; intro h)
              | (apply stepWith heq; (focus (with_reducible apply (Grows.generateBlockStatement (fun s _ => stmtOK s) h); done)); clear h; intro h)
              | (apply stepWith heq; (focus (with_reducible apply (h.implicitReturn); done)); clear h; intro h)
              | (apply stepWith heq; (focus (with_reducible apply (h.brIfOpen); done)); clear h; intro h)
              | fail))
    | (cases e; first | done | exact hs.extend | exact h.report _ | fail)
    | (dsimp only at e)
    | fail)

theorem Grows.lenOrCap_nil {a g x g' : IRGenerator} [Ext g x] {field : Int} {what : String} {arg : Value}
    (h : Grows a g) (e : Irgen.lenOrCap field what arg x = .ok (none, g')) : Strict a g' := by
  replace h : Grows a x := h.ext
  unfold Irgen.lenOrCap at e
  try simp only [IRGenerator.NewAlloca, IRGenerator.NewLoad, IRGenerator.NewBin, IRGenerator.NewICmp, IRGenerator.NewFCmp, IRGenerator.NewGetElementPtr, IRGenerator.funcValue, NewCall_func, IRGenerator.NewCall, IRGenerator.NewZExt, IRGenerator.NewSelect, IRGenerator.NewBr, IRGenerator.NewCondBr, IRGenerator.NewRet, IRGenerator.NewUnreachable, IRGenerator.NewFunc, IRGenerator.NewGlobalDef] at e
  repeat' (first
    | (with_reducible first
        | (revert e; apply (hs.step ∘ ((Grows.refl _).NewInst)); done)
        | (revert e; apply (hs.step ∘ ((Grows.refl _).NewStore)); done)
        | (revert e; apply (hs.step ∘ ((Grows.refl _).NewTerm)); done)
        | (revert e; apply (hs.step ∘ ((Grows.refl _).NewBlock)); done)
        | (revert e; apply (hs.step ∘ ((Grows.refl _).generateExpression)); done)
        | (revert e; apply (hs.step ∘ ((Grows.refl _).appendPrologue)); done)
        | (revert e; apply (hs.step ∘ ((Grows.refl _).appendEpilogue)); done)
        | (revert e; apply (hs.step ∘ ((Grows.refl _).generateBoundsCheck)); done)
        | (revert e; apply (hs.step ∘ (Grows.appendElements (fun e _ => exprOK e) (Grows.refl _))); done)
        | (revert e; apply (hs.step ∘ (Grows.callArguments (fun e _ => exprOK e) (Grows.refl _))); done)
        | (revert e; apply (hs.step ∘ (Grows.printfArguments (fun e _ => exprOK e) (Grows.refl _))); done)
        | (revert e; apply (hs.step ∘ (Grows.arrayElements (fun e _ => exprOK e) (Grows.refl _))); done)
        | (revert e; apply (hs.step ∘ ((Grows.refl _).bindLiteralParameters)); done)
        | (revert e; apply (hs.step ∘ (Grows.generateBlockStatement (fun s _ => stmtOK s) (Grows.refl _))); done)
        | (revert e; apply (hs.step ∘ ((Grows.refl _).implicitReturn)); done)
        | (revert e; apply (hs.step ∘ ((Grows.refl _).brIfOpen)); done)
        | (revert e; apply (hs.step ∘ ((Grows.refl _).asResult)); done)
        | (revert e; apply (hs.step ∘ ((Grows.refl _).failWith)); done)
        | (revert e; apply (hs.step ∘ ((Grows.refl _).generateIdentifier)); done)
        | (revert e; apply (hs.step ∘ ((Grows.refl _).prefixOperator)); done)
        | (revert e; apply (hs.step ∘ ((Grows.refl _).generatePostfixExpression)); done)
        | (revert e; apply (hs.step ∘ ((Grows.refl _).generateStringConcatenation)); done)
        | (revert e; apply (hs.step ∘ ((Grows.refl _).infixOperator)); done)
        | (revert e; apply (hs.step ∘ ((Grows.refl _).indexAccess)); done)
        | (revert e; apply (hs.step ∘ ((Grows.refl _).lenOrCap)); done)
        | (revert e; apply (hs.step ∘ ((Grows.refl _).makeSlice)); done)
        | (revert e; apply (hs.step ∘ ((Grows.refl _).printfNoArguments)); done)
        | (revert e; apply (hs.step ∘ ((Grows.refl _).printfCall)); done)
        | (revert e; apply (hs.step ∘ (Grows.generateLenCall (fun e _ => exprOK e) (Grows.refl _))); done)
        | (revert e; apply (hs.step ∘ (Grows.generateCapCall (fun e _ => exprOK e) (Grows.refl _))); done)
        | (revert e; apply (hs.step ∘ (Grows.generateAppendCall (fun e _ => exprOK e) (Grows.refl _))); done)
        | (revert e; apply (hs.step ∘ (Grows.generateMakeCall (fun e _ => exprOK e) (Grows.refl _))); done)
        | (revert e; apply (hs.step ∘ (Grows.generateExitCall (fun e _ => exprOK e) (Grows.refl _))); done)
        | (revert e; apply (h.asResult_nil); done)
        | (revert e; apply (h.failWith_nil); done)
        | fail)
    | (apply stepWith e; (focus (with_reducible apply (@ite_ok _ _ _ _ _ _); done)); intro e2
       clear e
       rcases e2 with ⟨_, e⟩ | ⟨_, e⟩)
    | (simp only [bind_assoc, pure_bind] at e)
    | (rw [bind_ok] at e
       obtain ⟨⟨x1, g1⟩, e1, e⟩ := e
       try dsimp only at e
       first
         | (apply stepWith e1; (focus (with_reducible apply (hs.step ∘ ((Grows.refl _).NewInst)); done)); clear hs; intro hs)
         | (apply stepWith e1; (focus (with_reducible apply (hs.step ∘ ((Grows.refl _).NewStore)); done)); clear hs; intro hs)
         | (apply stepWith e1; (focus (with_reducible apply (hs.step ∘ ((Grows.refl _).NewTerm)); done)); clear hs; intro hs)
         | (apply stepWith e1; (focus (with_reducible apply (hs.step ∘ ((Grows.refl _).NewBlock)); done)); clear hs; intro hs)
         | (apply stepWith e1; (focus (with_reducible apply (hs.step ∘ ((Grows.refl _).generateExpression)); done)); clear hs; intro hs)
         | (apply stepWith e1; (focus (with_reducible apply (hs.step ∘ ((Grows.refl _).appendPrologue)); done)); clear hs; intro hs)
         | (apply stepWith e1; (focus (with_reducible apply (hs.step ∘ ((Grows.refl _).appendEpilogue)); done)); clear hs; intro hs)
         | (apply stepWith e1; (focus (with_reducible apply (hs.step ∘ ((Grows.refl _).generateBoundsCheck)); done)); clear hs; intro hs)
         | (apply stepWith e1; (focus (with_reducible apply (hs.step ∘ (Grows.appendElements (fun e _ => exprOK e) (Grows.refl _))); done)); clear hs; intro hs)
         | (apply stepWith e1; (focus (with_reducible apply (hs.step ∘ (Grows.callArguments (fun e _ => exprOK e) (Grows.refl _))); done)); clear hs; intro hs)
         | (apply stepWith e1; (focus (with_reducible apply (hs.step ∘ (Grows.printfArguments (fun e _ => exprOK e) (Grows.refl _))); done)); clear hs; intro hs)
         | (apply stepWith e1; (focus (with_reducible apply (hs.step ∘ (Grows.arrayElements (fun e _ => exprOK e) (Grows.refl _))); done)); clear hs; intro hs)
         | (apply stepWith e1; (focus (with_reducible apply (hs.step ∘ ((Grows.refl _).bindLiteralParameters)); done)); clear hs; intro hs)
         | (apply stepWith e1; (focus (with_reducible apply (hs.step ∘ (Grows.generateBlockStatement (fun s _ => stmtOK s) (Grows.refl _))); done)); clear hs; intro hs)
         | (apply stepWith e1; (focus (with_reducible apply (hs.step ∘ ((Grows.refl _).implicitReturn)); done)); clear hs; intro hs)
         | (apply stepWith e1; (focus (with_reducible apply (hs.step ∘ ((Grows.refl _).brIfOpen)); done)); clear hs; intro hs)
         | (apply stepWith e1; (focus (with_reducible apply (h.NewInst); done)); clear h; intro h)
         | (apply stepWith e1; (focus (with_reducible apply (h.NewStore); done)); clear h; intro h)
         | (apply stepWith e1; (focus (with_reducible apply (h.NewTerm); done)); clear h; intro h)
         | (apply stepWith e1; (focus (with_reducible apply (h.NewBlock); done)); clear h; intro h)
         | (apply stepWith e1; (focus (with_reducible apply (h.generateExpression); done)); clear h; intro h)
         | (apply stepWith e1; (focus (with_reducible apply (h.appendPrologue); done)); clear h; intro h)
         | (apply stepWith e1; (focus (with_reducible apply (h.appendEpilogue); done)); clear h; intro h)
         | (apply stepWith e1; (focus (with_reducible apply (h.generateBoundsCheck); done)); clear h; intro h)
         | (apply stepWith e1; (focus (with_reducible apply (Grows.appendElements (fun e _ => exprOK e) h); done)); clear h; intro h)
         | (apply stepWith e1; (focus (with_reducible apply (Grows.callArguments (fun e _ => exprOK e) h); done)); clear h; intro h)
         | (apply stepWith e1; (focus (with_reducible apply (Grows.printfArguments (fun e _ => exprOK e) h); done)); clear h; intro h)
         | (apply stepWith e1; (focus (with_reducible apply (Grows.arrayElements (fun e _ => exprOK e) h); done)); clear h; intro h)
         | (apply stepWith e1; (focus (with_reducible apply (h.bindLiteralParameters); done)); clear h; intro h)
         | (apply stepWith e1; (focus (with_reducible apply (Grows.generateBlockStatement (fun s _ => stmtOK s) h); done)); clear h; intro h)
         | (apply stepWith e1; (focus (with_reducible apply (h.implicitReturn); done)); clear h; intro h)
         | (apply stepWith e1; (focus (with_reducible apply (h.brIfOpen); done)); clear h; intro h)
         | (cases e1)
         | fail)
    | (split at e <;>
       try (rename_i heq
            first
              | (apply stepWith heq; (focus (with_reducible apply (hs.step ∘ ((Grows.refl _).getOrDeclare)); done)); clear hs; intro hs)
              | (apply stepWith heq; (focus (with_reducible apply (hs.step ∘ ((Grows.refl _).resolveCallee)); done)); clear hs; intro hs)
              | (apply stepWith heq; (focus (with_reducible apply (hs.step ∘ ((Grows.refl _).generateStringLiteral)); done)); clear hs; intro hs)
              | (apply stepWith heq; (focus (with_reducible apply (hs.step ∘ ((Grows.refl _).NewInst)); done)); clear hs; intro hs)
              | (apply stepWith heq; (focus (with_reducible apply (hs.step ∘ ((Grows.refl _).NewStore)); done)); clear hs; intro hs)
              | (apply stepWith heq; (focus (with_reducible apply (hs.step ∘ ((Grows.refl _).NewTerm)); done)); clear hs; intro hs)
              | (apply stepWith heq; (focus (with_reducible apply (hs.step ∘ ((Grows.refl _).NewBlock)); done)); clear hs; intro hs)
              | (apply stepWith heq; (focus (with_reducible apply (hs.step ∘ ((Grows.refl _).generateExpression)); done)); clear hs; intro hs)
              | (apply stepWith heq; (focus (with_reducible apply (hs.step ∘ ((Grows.refl _).appendPrologue)); done)); clear hs; intro hs)
              | (apply stepWith heq; (focus (with_reducible apply (hs.step ∘ ((Grows.refl _).appendEpilogue)); done)); clear hs; intro hs)
              | (apply stepWith heq; (focus (with_reducible apply (hs.step ∘ ((Grows.refl _).generateBoundsCheck)); done)); clear hs; intro hs)
              | (apply stepWith heq; (focus (with_reducible apply (hs.step ∘ (Grows.appendElements (fun e _ => exprOK e) (Grows.refl _))); done)); clear hs; intro hs)
              | (apply stepWith heq; (focus (with_reducible apply (hs.step ∘ (Grows.callArguments (fun e _ => exprOK e) (Grows.refl _))); done)); clear hs; intro hs)
              | (apply stepWith heq; (focus (with_reducible apply (hs.step ∘ (Grows.printfArguments (fun e _ => exprOK e) (Grows.refl _))); done)); clear hs; intro hs)
              | (apply stepWith heq; (focus (with_reducible apply (hs.step ∘ (Grows.arrayElements (fun e _ => exprOK e) (Grows.refl _))); done)); clear hs; intro hs)
              | (apply stepWith heq; (focus (with_reducible apply (hs.step ∘ ((Grows.refl _).bindLiteralParameters)); done)); clear hs; intro hs)
              | (apply stepWith heq; (focus (with_reducible apply (hs.step ∘ (Grows.generateBlockStatement (fun s _ => stmtOK s) (Grows.refl _))); done)); clear hs; intro hs)
              | (apply stepWith heq; (focus (with_reducible apply (hs.step ∘ ((Grows.refl _).implicitReturn)); done)); clear hs; intro hs)
              | (apply stepWith heq; (focus (with_reducible apply (hs.step ∘ ((Grows.refl _).brIfOpen)); done)); clear hs; intro hs)
              | (apply stepWith heq; (focus (with_reducible apply (h.getOrDeclare); done)); clear h; intro h)
              | (apply stepWith heq; (focus (with_reducible apply (h.resolveCallee); done)); clear h; intro h)
              | (apply stepWith heq; (focus (with_reducible apply (h.generateStringLiteral); done)); clear h; intro h)
              | (apply stepWith heq; (focus (with_reducible apply (h.NewInst); done)); clear h; intro h)
              | (apply stepWith heq; (focus (with_reducible apply (h.NewStore); done)); clear h; intro h)
              | (apply stepWith heq; (focus (with_reducible apply (h.NewTerm); done)); clear h; intro h)
              | (apply stepWith heq; (focus (with_reducible apply (h.NewBlock); done)); clear h; intro h)
              | (apply stepWith heq; (focus (with_reducible apply (h.generateExpression); done)); clear h; intro h)
              | (apply stepWith heq; (focus (with_reducible apply (h.appendPrologue); done)); clear h; intro h)
              | (apply stepWith heq; (focus (with_reducible apply (h.appendEpilogue); done)); clear h; intro h)
              | (apply stepWith heq; (focus (with_reducible apply (h.generateBoundsCheck); done)); clear h; intro h)
              | (apply stepWith heq; (focus (with_reducible apply (Grows.appendElements (fun e _ => exprOK e) h); done)); clear h; intro h)
              | (apply stepWith heq; (focus (with_reducible apply (Grows.callArguments (fun e _ => exprOK e) h); done)); clear h; intro h)
              | (apply stepWith heq; (focus (with_reducible apply (Grows.printfArguments (fun e _ => exprOK e) h); done)); clear h; intro h)
              | (apply stepWith heq; (focus (with_reducible apply (Grows.arrayElements (fun e _ => exprOK e) h); done)); clear h; intro h)
              | (apply stepWith heq; (focus (with_reducible apply (h.bindLiteralParameters); done)); clear h; intro h)
              | (apply stepWith heq; (focus (with_reducible apply (Grows.generateBlockStatement (fun s _ => stmtOK s) h); done)); clear h; intro h)
              | (apply stepWith heq; (focus (with_reducible apply (h.implicitReturn); done)); clear h; intro h)
              | (apply stepWith heq; (focus (with_reducible apply (h.brIfOpen); done)); clear h; intro h)
              | fail))
    | (cases e; first | done | exact hs.extend | exact h.report _ | fail)
    | (dsimp only at e)
    | fail)

theorem Grows.makeSlice_nil {a g x g' : IRGenerator} [Ext g x] {elementType : Ty} {length capacity : Option Value}
    (h : Grows a g) (e : Irgen.makeSlice elementType length capacity x = .ok (none, g')) : Strict a g' := by
  replace h : Grows a x := h.ext
  unfold Irgen.makeSlice at e
  try simp only [IRGenerator.NewAlloca, IRGenerator.NewLoad, IRGenerator.NewBin, IRGenerator.NewICmp, IRGenerator.NewFCmp, IRGenerator.NewGetElementPtr, IRGenerator.funcValue, NewCall_func, IRGenerator.NewCall, IRGenerator.NewZExt, IRGenerator.NewSelect, IRGenerator.NewBr, IRGenerator.NewCondBr, IRGenerator.NewRet, IRGenerator.NewUnreachable, IRGenerator.NewFunc, IRGenerator.NewGlobalDef] at e
  repeat' (first
    | (with_reducible first
        | (revert e; apply (hs.step ∘ ((Grows.refl _).NewInst)); done)
        | (revert e; apply (hs.step ∘ ((Grows.refl _).NewStore)); done)
        | (revert e; apply (hs.step ∘ ((Grows.refl _).NewTerm)); done)
        | (revert e; apply (hs.step ∘ ((Grows.refl _).NewBlock)); done)
        | (revert e; apply (hs.step ∘ ((Grows.refl _).generateExpression)); done)
        | (revert e; apply (hs.step ∘ ((Grows.refl _).appendPrologue)); done)
        | (revert e; apply (hs.step ∘ ((Grows.refl _).appendEpilogue)); done)
        | (revert e; apply (hs.step ∘ ((Grows.refl _).generateBoundsCheck)); done)
        | (revert e; apply (hs.step ∘ (Grows.appendElements (fun e _ => exprOK e) (Grows.refl _))); done)
        | (revert e; apply (hs.step ∘ (Grows.callArguments (fun e _ => exprOK e) (Grows.refl _))); done)
        | (revert e; apply (hs.step ∘ (Grows.printfArguments (fun e _ => exprOK e) (Grows.refl _))); done)
        | (revert e; apply (hs.step ∘ (Grows.arrayElements (fun e _ => exprOK e) (Grows.refl _))); done)
        | (revert e; apply (hs.step ∘ ((Grows.refl _).bindLiteralParameters)); done)
        | (revert e; apply (hs.step ∘ (Grows.generateBlockStatement (fun s _ => stmtOK s) (Grows.refl _))); done)
        | (revert e; apply (hs.step ∘ ((Grows.refl _).implicitReturn)); done)
        | (revert e; apply (hs.step ∘ ((Grows.refl _).brIfOpen)); done)
        | (revert e; apply (hs.step ∘ ((Grows.refl _).asResult)); done)
        | (revert e; apply (hs.step ∘ ((Grows.refl _).failWith)); done)
        | (revert e; apply (hs.step ∘ ((Grows.refl _).generateIdentifier)); done)
        | (revert e; apply (hs.step ∘ ((Grows.refl _).prefixOperator)); done)
        | (revert e; apply (hs.step ∘ ((Grows.refl _).generatePostfixExpression)); done)
        | (revert e; apply (hs.step ∘ ((Grows.refl _).generateStringConcatenation)); done)
        | (revert e; apply (hs.step ∘ ((Grows.refl _).infixOperator)); done)
        | (revert e; apply (hs.step ∘ ((Grows.refl _).indexAccess)); done)
        | (revert e; apply (hs.step ∘ ((Grows.refl _).lenOrCap)); done)
        | (revert e; apply (hs.step ∘ ((Grows.refl _).makeSlice)); done)
        | (revert e; apply (hs.step ∘ ((Grows.refl _).printfNoArguments)); done)
        | (revert e; apply (hs.step ∘ ((Grows.refl _).printfCall)); done)
        | (revert e; apply (hs.step ∘ (Grows.generateLenCall (fun e _ => exprOK e) (Grows.refl _))); done)
        | (revert e; apply (hs.step ∘ (Grows.generateCapCall (fun e _ => exprOK e) (Grows.refl _))); done)
        | (revert e; apply (hs.step ∘ (Grows.generateAppendCall (fun e _ => exprOK e) (Grows.refl _))); done)
        | (revert e; apply (hs.step ∘ (Grows.generateMakeCall (fun e _ => exprOK e) (Grows.refl _))); done)
        | (revert e; apply (hs.step ∘ (Grows.generateExitCall (fun e _ => exprOK e) (Grows.refl _))); done)
        | (revert e; apply (h.asResult_nil); done)
        | (revert e; apply (h.failWith_nil); done)
        | fail)
    | (apply stepWith e; (focus (with_reducible apply (@ite_ok _ _ _ _ _ _); done)); intro e2
       clear e
       rcases e2 with ⟨_, e⟩ | ⟨_, e⟩)
    | (simp only [bind_assoc, pure_bind] at e)
    | (rw [bind_ok] at e
       obtain ⟨⟨x1, g1⟩, e1, e⟩ := e
       try dsimp only at e
       first
         | (apply stepWith e1; (focus (with_reducible apply (hs.step ∘ ((Grows.refl _).NewInst)); done)); clear hs; intro hs)
         | (apply stepWith e1; (focus (with_reducible apply (hs.step ∘ ((Grows.refl _).NewStore)); done)); clear hs; intro hs)
         | (apply stepWith e1; (focus (with_reducible apply (hs.step ∘ ((Grows.refl _).NewTerm)); done)); clear hs; intro hs)
         | (apply stepWith e1; (focus (with_reducible apply (hs.step ∘ ((Grows.refl _).NewBlock)); done)); clear hs; intro hs)
         | (apply stepWith e1; (focus (with_reducible apply (hs.step ∘ ((Grows.refl _).generateExpression)); done)); clear hs; intro hs)
         | (apply stepWith e1; (focus (with_reducible apply (hs.step ∘ ((Grows.refl _).appendPrologue)); done)); clear hs; intro hs)
         | (apply stepWith e1; (focus (with_reducible apply (hs.step ∘ ((Grows.refl _).appendEpilogue)); done)); clear hs; intro hs)
         | (apply stepWith e1; (focus (with_reducible apply (hs.step ∘ ((Grows.refl _).generateBoundsCheck)); done)); clear hs; intro hs)
         | (apply stepWith e1; (focus (with_reducible apply (hs.step ∘ (Grows.appendElements (fun e _ => exprOK e) (Grows.refl _))); done)); clear hs; intro hs)
         | (apply stepWith e1; (focus (with_reducible apply (hs.step ∘ (Grows.callArguments (fun e _ => exprOK e) (Grows.refl _))); done)); clear hs; intro hs)
         | (apply stepWith e1; (focus (with_reducible apply (hs.step ∘ (Grows.printfArguments (fun e _ => exprOK e) (Grows.refl _))); done)); clear hs; intro hs)
         | (apply stepWith e1; (focus (with_reducible apply (hs.step ∘ (Grows.arrayElements (fun e _ => exprOK e) (Grows.refl _))); done)); clear hs; intro hs)
         | (apply stepWith e1; (focus (with_reducible apply (hs.step ∘ ((Grows.refl _).bindLiteralParameters)); done)); clear hs; intro hs)
         | (apply stepWith e1; (focus (with_reducible apply (hs.step ∘ (Grows.generateBlockStatement (fun s _ => stmtOK s) (Grows.refl _))); done)); clear hs; intro hs)
         | (apply stepWith e1; (focus (with_reducible apply (hs.step ∘ ((Grows.refl _).implicitReturn)); done)); clear hs; intro hs)
         | (apply stepWith e1; (focus (with_reducible apply (hs.step ∘ ((Grows.refl _).brIfOpen)); done)); clear hs; intro hs)
         | (apply stepWith e1; (focus (with_reducible apply (h.NewInst); done)); clear h; intro h)
         | (apply stepWith e1; (focus (with_reducible apply (h.NewStore); done)); clear h; intro h)
         | (apply stepWith e1; (focus (with_reducible apply (h.NewTerm); done)); clear h; intro h)
         | (apply stepWith e1; (focus (with_reducible apply (h.NewBlock); done)); clear h; intro h)
         | (apply stepWith e1; (focus (with_reducible apply (h.generateExpression); done)); clear h; intro h)
         | (apply stepWith e1; (focus (with_reducible apply (h.appendPrologue); done)); clear h; intro h)
         | (apply stepWith e1; (focus (with_reducible apply (h.appendEpilogue); done)); clear h; intro h)
         | (apply stepWith e1; (focus (with_reducible apply (h.generateBoundsCheck); done)); clear h; intro h)
         | (apply stepWith e1; (focus (with_reducible apply (Grows.appendElements (fun e _ => exprOK e) h); done)); clear h; intro h)
         | (apply stepWith e1; (focus (with_reducible apply (Grows.callArguments (fun e _ => exprOK e) h); done)); clear h; intro h)
         | (apply stepWith e1; (focus (with_reducible apply (Grows.printfArguments (fun e _ => exprOK e) h); done)); clear h; intro h)
         | (apply stepWith e1; (focus (with_reducible apply (Grows.arrayElements (fun e _ => exprOK e) h); done)); clear h; intro h)
         | (apply stepWith e1; (focus (with_reducible apply (h.bindLiteralParameters); done)); clear h; intro h)
         | (apply stepWith e1; (focus (with_reducible apply (Grows.generateBlockStatement (fun s _ => stmtOK s) h); done)); clear h; intro h)
         | (apply stepWith e1; (focus (with_reducible apply (h.implicitReturn); done)); clear h; intro h)
         | (apply stepWith e1; (focus (with_reducible apply (h.brIfOpen); done)); clear h; intro h)
         | (cases e1)
         | fail)
    | (split at e <;>
       try (rename_i heq
            first
              | (apply stepWith heq; (focus (with_reducible apply (hs.step ∘ ((Grows.refl _).getOrDeclare)); done)); clear hs; intro hs)
              | (apply stepWith heq; (focus (with_reducible apply (hs.step ∘ ((Grows.refl _).resolveCallee)); done)); clear hs; intro hs)
              | (apply stepWith heq; (focus (with_reducible apply (hs.step ∘ ((Grows.refl _).generateStringLiteral)); done)); clear hs; intro hs)
              | (apply stepWith heq; (focus (with_reducible apply (hs.step ∘ ((Grows.refl _).NewInst)); done)); clear hs; intro hs)
              | (apply stepWith heq; (focus (with_reducible apply (hs.step ∘ ((Grows.refl _).NewStore)); done)); clear hs; intro hs)
              | (apply stepWith heq; (focus (with_reducible apply (hs.step ∘ ((Grows.refl _).NewTerm)); done)); clear hs; intro hs)
              | (apply stepWith heq; (focus (with_reducible apply (hs.step ∘ ((Grows.refl _).NewBlock)); done)); clear hs; intro hs)
              | (apply stepWith heq; (focus (with_reducible apply (hs.step ∘ ((Grows.refl _).generateExpression)); done)); clear hs; intro hs)
              | (apply stepWith heq; (focus (with_reducible apply (hs.step ∘ ((Grows.refl _).appendPrologue)); done)); clear hs; intro hs)
              | (apply stepWith heq; (focus (with_reducible apply (hs.step ∘ ((Grows.refl _).appendEpilogue)); done)); clear hs; intro hs)
              | (apply stepWith heq; (focus (with_reducible apply (hs.step ∘ ((Grows.refl _).generateBoundsCheck)); done)); clear hs; intro hs)
              | (apply stepWith heq; (focus (with_reducible apply (hs.step ∘ (Grows.appendElements (fun e _ => exprOK e) (Grows.refl _))); done)); clear hs; intro hs)
              | (apply stepWith heq; (focus (with_reducible apply (hs.step ∘ (Grows.callArguments (fun e _ => exprOK e) (Grows.refl _))); done)); clear hs; intro hs)
              | (apply stepWith heq; (focus (with_reducible apply (hs.step ∘ (Grows.printfArguments (fun e _ => exprOK e) (Grows.refl _))); done)); clear hs; intro hs)
              | (apply stepWith heq; (focus (with_reducible apply (hs.step ∘ (Grows.arrayElements (fun e _ => exprOK e) (Grows.refl _))); done)); clear hs; intro hs)
              | (apply stepWith heq; (focus (with_reducible apply (hs.step ∘ ((Grows.refl _).bindLiteralParameters)); done)); clear hs; intro hs)
              | (apply stepWith heq; (focus (with_reducible apply (hs.step ∘ (Grows.generateBlockStatement (fun s _ => stmtOK s) (Grows.refl _))); done)); clear hs; intro hs)
              | (apply stepWith heq; (focus (with_reducible apply (hs.step ∘ ((Grows.refl _).implicitReturn)); done)); clear hs; intro hs)
              | (apply stepWith heq; (focus (with_reducible apply (hs.step ∘ ((Grows.refl _).brIfOpen)); done)); clear hs; intro hs)
              | (apply stepWith heq; (focus (with_reducible apply (h.getOrDeclare); done)); clear h; intro h)
              | (apply stepWith heq; (focus (with_reducible apply (h.resolveCallee); done)); clear h; intro h)
              | (apply stepWith heq; (focus (with_reducible apply (h.generateStringLiteral); done)); clear h; intro h)
              | (apply stepWith heq; (focus (with_reducible apply (h.NewInst); done)); clear h; intro h)
              | (apply stepWith heq; (focus (with_reducible apply (h.NewStore); done)); clear h; intro h)
              | (apply stepWith heq; (focus (with_reducible apply (h.NewTerm); done)); clear h; intro h)
              | (apply stepWith heq; (focus (with_reducible apply (h.NewBlock); done)); clear h; intro h)
              | (apply stepWith heq; (focus (with_reducible apply (h.generateExpression); done)); clear h; intro h)
              | (apply stepWith heq; (focus (with_reducible apply (h.appendPrologue); done)); clear h; intro h)
              | (apply stepWith heq; (focus (with_reducible apply (h.appendEpilogue); done)); clear h; intro h)
              | (apply stepWith heq; (focus (with_reducible apply (h.generateBoundsCheck); done)); clear h; intro h)
              | (apply stepWith heq; (focus (with_reducible apply (Grows.appendElements (fun e _ => exprOK e) h); done)); clear h; intro h)
              | (apply stepWith heq; (focus (with_reducible apply (Grows.callArguments (fun e _ => exprOK e) h); done)); clear h; intro h)
              | (apply stepWith heq; (focus (with_reducible apply (Grows.printfArguments (fun e _ => exprOK e) h); done)); clear h; intro h)
              | (apply stepWith heq; (focus (with_reducible apply (Grows.arrayElements (fun e _ => exprOK e) h); done)); clear h; intro h)
              | (apply stepWith heq; (focus (with_reducible apply (h.bindLiteralParameters); done)); clear h; intro h)
              | (apply stepWith heq; (focus (with_reducible apply (Grows.generateBlockStatement (fun s _ => stmtOK s) h); done)); clear h; intro h)
              | (apply stepWith heq; (focus (with_reducible apply (h.implicitReturn); done)); clear h; intro h)
              | (apply stepWith heq; (focus (with_reducible apply (h.brIfOpen); done)); clear h; intro h)
              | fail))
    | (cases e; first | done | exact hs.extend | exact h.report _ | fail)
    | (dsimp only at e)
    | fail)

theorem Grows.printfNoArguments_nil {a g x g' : IRGenerator} [Ext g x] {funcName : String}
    (h : Grows a g) (e : Irgen.printfNoArguments funcName x = .ok (none, g')) : Strict a g' := by
  replace h : Grows a x := h.ext
  unfold Irgen.printfNoArguments at e
  try simp only [IRGenerator.NewAlloca, IRGenerator.NewLoad, IRGenerator.NewBin, IRGenerator.NewICmp, IRGenerator.NewFCmp, IRGenerator.NewGetElementPtr, IRGenerator.funcValue, NewCall_func, IRGenerator.NewCall, IRGenerator.NewZExt, IRGenerator.NewSelect, IRGenerator.NewBr, IRGenerator.NewCondBr, IRGenerator.NewRet, IRGenerator.NewUnreachable, IRGenerator.NewFunc, IRGenerator.NewGlobalDef] at e
  repeat' (first
    | (with_reducible first
        | (revert e; apply (hs.step ∘ ((Grows.refl _).NewInst)); done)
        | (revert e; apply (hs.step ∘ ((Grows.refl _).NewStore)); done)
        | (revert e; apply (hs.step ∘ ((Grows.refl _).NewTerm)); done)
        | (revert e; apply (hs.step ∘ ((Grows.refl _).NewBlock)); done)
        | (revert e; apply (hs.step ∘ ((Grows.refl _).generateExpression)); done)
        | (revert e; apply (hs.step ∘ ((Grows.refl _).appendPrologue)); done)
        | (revert e; apply (hs.step ∘ ((Grows.refl _).appendEpilogue)); done)
        | (revert e; apply (hs.step ∘ ((Grows.refl _).generateBoundsCheck)); done)
        | (revert e; apply (hs.step ∘ (Grows.appendElements (fun e _ => exprOK e) (Grows.refl _))); done)
        | (revert e; apply (hs.step ∘ (Grows.callArguments (fun e _ => exprOK e) (Grows.refl _))); done)
        | (revert e; apply (hs.step ∘ (Grows.printfArguments (fun e _ => exprOK e) (Grows.refl _))); done)
        | (revert e; apply (hs.step ∘ (Grows.arrayElements (fun e _ => exprOK e) (Grows.refl _))); done)
        | (revert e; apply (hs.step ∘ ((Grows.refl _).bindLiteralParameters)); done)
        | (revert e; apply (hs.step ∘ (Grows.generateBlockStatement (fun s _ => stmtOK s) (Grows.refl _))); done)
        | (revert e; apply (hs.step ∘ ((Grows.refl _).implicitReturn)); done)
        | (revert e; apply (hs.step ∘ ((Grows.refl _).brIfOpen)); done)
        | (revert e; apply (hs.step ∘ ((Grows.refl _).asResult)); done)
        | (revert e; apply (hs.step ∘ ((Grows.refl _).failWith)); done)
        | (revert e; apply (hs.step ∘ ((Grows.refl _).generateIdentifier)); done)
        | (revert e; apply (hs.step ∘ ((Grows.refl _).prefixOperator)); done)
        | (revert e; apply (hs.step ∘ ((Grows.refl _).generatePostfixExpression)); done)
        | (revert e; apply (hs.step ∘ ((Grows.refl _).generateStringConcatenation)); done)
        | (revert e; apply (hs.step ∘ ((Grows.refl _).infixOperator)); done)
        | (revert e; apply (hs.step ∘ ((Grows.refl _).indexAccess)); done)
        | (revert e; apply (hs.step ∘ ((Grows.refl _).lenOrCap)); done)
        | (revert e; apply (hs.step ∘ ((Grows.refl _).makeSlice)); done)
        | (revert e; apply (hs.step ∘ ((Grows.refl _).printfNoArguments)); done)
        | (revert e; apply (hs.step ∘ ((Grows.refl _).printfCall)); done)
        | (revert e; apply (hs.step ∘ (Grows.generateLenCall (fun e _ => exprOK e) (Grows.refl _))); done)
        | (revert e; apply (hs.step ∘ (Grows.generateCapCall (fun e _ => exprOK e) (Grows.refl _))); done)
        | (revert e; apply (hs.step ∘ (Grows.generateAppendCall (fun e _ => exprOK e) (Grows.refl _))); done)
        | (revert e; apply (hs.step ∘ (Grows.generateMakeCall (fun e _ => exprOK e) (Grows.refl _))); done)
        | (revert e; apply (hs.step ∘ (Grows.generateExitCall (fun e _ => exprOK e) (Grows.refl _))); done)
        | (revert e; apply (h.asResult_nil); done)
        | (revert e; apply (h.failWith_nil); done)
        | fail)
    | (apply stepWith e; (focus (with_reducible apply (@ite_ok _ _ _ _ _ _); done)); intro e2
       clear e
       rcases e2 with ⟨_, e⟩ | ⟨_, e⟩)
    | (simp only [bind_assoc, pure_bind] at e)
    | (rw [bind_ok] at e
       obtain ⟨⟨x1, g1⟩, e1, e⟩ := e
       try dsimp only at e
       first
         | (apply stepWith e1; (focus (with_reducible apply (hs.step ∘ ((Grows.refl _).NewInst)); done)); clear hs; intro hs)
         | (apply stepWith e1; (focus (with_reducible apply (hs.step ∘ ((Grows.refl _).NewStore)); done)); clear hs; intro hs)
         | (apply stepWith e1; (focus (with_reducible apply (hs.step ∘ ((Grows.refl _).NewTerm)); done)); clear hs; intro hs)
         | (apply stepWith e1; (focus (with_reducible apply (hs.step ∘ ((Grows.refl _).NewBlock)); done)); clear hs; intro hs)
         | (apply stepWith e1; (focus (with_reducible apply (hs.step ∘ ((Grows.refl _).generateExpression)); done)); clear hs; intro hs)
         | (apply stepWith e1; (focus (with_reducible apply (hs.step ∘ ((Grows.refl _).appendPrologue)); done)); clear hs; intro hs)
         | (apply stepWith e1; (focus (with_reducible apply (hs.step ∘ ((Grows.refl _).appendEpilogue)); done)); clear hs; intro hs)
         | (apply stepWith e1; (focus (with_reducible apply (hs.step ∘ ((Grows.refl _).generateBoundsCheck)); done)); clear hs; intro hs)
         | (apply stepWith e1; (focus (with_reducible apply (hs.step ∘ (Grows.appendElements (fun e _ => exprOK e) (Grows.refl _))); done)); clear hs; intro hs)
         | (apply stepWith e1; (focus (with_reducible apply (hs.step ∘ (Grows.callArguments (fun e _ => exprOK e) (Grows.refl _))); done)); clear hs; intro hs)
         | (apply stepWith e1; (focus (with_reducible apply (hs.step ∘ (Grows.printfArguments (fun e _ => exprOK e) (Grows.refl _))); done)); clear hs; intro hs)
         | (apply stepWith e1; (focus (with_reducible apply (hs.step ∘ (Grows.arrayElements (fun e _ => exprOK e) (Grows.refl _))); done)); clear hs; intro hs)
         | (apply stepWith e1; (focus (with_reducible apply (hs.step ∘ ((Grows.refl _).bindLiteralParameters)); done)); clear hs; intro hs)
         | (apply stepWith e1; (focus (with_reducible apply (hs.step ∘ (Grows.generateBlockStatement (fun s _ => stmtOK s) (Grows.refl _))); done)); clear hs; intro hs)
         | (apply stepWith e1; (focus (with_reducible apply (hs.step ∘ ((Grows.refl _).implicitReturn)); done)); clear hs; intro hs)
         | (apply stepWith e1; (focus (with_reducible apply (hs.step ∘ ((Grows.refl _).brIfOpen)); done)); clear hs; intro hs)
         | (apply stepWith e1; (focus (with_reducible apply (h.NewInst); done)); clear h; intro h)
         | (apply stepWith e1; (focus (with_reducible apply (h.NewStore); done)); clear h; intro h)
         | (apply stepWith e1; (focus (with_reducible apply (h.NewTerm); done)); clear h; intro h)
         | (apply stepWith e1; (focus (with_reducible apply (h.NewBlock); done)); clear h; intro h)
         | (apply stepWith e1; (focus (with_reducible apply (h.generateExpression); done)); clear h; intro h)
         | (apply stepWith e1; (focus (with_reducible apply (h.appendPrologue); done)); clear h; intro h)
         | (apply stepWith e1; (focus (with_reducible apply (h.appendEpilogue); done)); clear h; intro h)
         | (apply stepWith e1; (focus (with_reducible apply (h.generateBoundsCheck); done)); clear h; intro h)
         | (apply stepWith e1; (focus (with_reducible apply (Grows.appendElements (fun e _ => exprOK e) h); done)); clear h; intro h)
         | (apply stepWith e1; (focus (with_reducible apply (Grows.callArguments (fun e _ => exprOK e) h); done)); clear h; intro h)
         | (apply stepWith e1; (focus (with_reducible apply (Grows.printfArguments (fun e _ => exprOK e) h); done)); clear h; intro h)
         | (apply stepWith e1; (focus (with_reducible apply (Grows.arrayElements (fun e _ => exprOK e) h); done)); clear h; intro h)
         | (apply stepWith e1; (focus (with_reducible apply (h.bindLiteralParameters); done)); clear h; intro h)
         | (apply stepWith e1; (focus (with_reducible apply (Grows.generateBlockStatement (fun s _ => stmtOK s) h); done)); clear h; intro h)
         | (apply stepWith e1; (focus (with_reducible apply (h.implicitReturn); done)); clear h; intro h)
         | (apply stepWith e1; (focus (with_reducible apply (h.brIfOpen); done)); clear h; intro h)
         | (cases e1)
         | fail)
    | (split at e <;>
       try (rename_i heq
            first
              | (apply stepWith heq; (focus (with_reducible apply (hs.step ∘ ((Grows.refl _).getOrDeclare)); done)); clear hs; intro hs)
              | (apply stepWith heq; (focus (with_reducible apply (hs.step ∘ ((Grows.refl _).resolveCallee)); done)); clear hs; intro hs)
              | (apply stepWith heq; (focus (with_reducible apply (hs.step ∘ ((Grows.refl _).generateStringLiteral)); done)); clear hs; intro hs)
              | (apply stepWith heq; (focus (with_reducible apply (hs.step ∘ ((Grows.refl _).NewInst)); done)); clear hs; intro hs)
              | (apply stepWith heq; (focus (with_reducible apply (hs.step ∘ ((Grows.refl _).NewStore)); done)); clear hs; intro hs)
              | (apply stepWith heq; (focus (with_reducible apply (hs.step ∘ ((Grows.refl _).NewTerm)); done)); clear hs; intro hs)
              | (apply stepWith heq; (focus (with_reducible apply (hs.step ∘ ((Grows.refl _).NewBlock)); done)); clear hs; intro hs)
              | (apply stepWith heq; (focus (with_reducible apply (hs.step ∘ ((Grows.refl _).generateExpression)); done)); clear hs; intro hs)
              | (apply stepWith heq; (focus (with_reducible apply (hs.step ∘ ((Grows.refl _).appendPrologue)); done)); clear hs; intro hs)
              | (apply stepWith heq; (focus (with_reducible apply (hs.step ∘ ((Grows.refl _).appendEpilogue)); done)); clear hs; intro hs)
              | (apply stepWith heq; (focus (with_reducible apply (hs.step ∘ ((Grows.refl _).generateBoundsCheck)); done)); clear hs; intro hs)
              | (apply stepWith heq; (focus (with_reducible apply (hs.step ∘ (Grows.appendElements (fun e _ => exprOK e) (Grows.refl _))); done)); clear hs; intro hs)
              | (apply stepWith heq; (focus (with_reducible apply (hs.step ∘ (Grows.callArguments (fun e _ => exprOK e) (Grows.refl _))); done)); clear hs; intro hs)
              | (apply stepWith heq; (focus (with_reducible apply (hs.step ∘ (Grows.printfArguments (fun e _ => exprOK e) (Grows.refl _))); done)); clear hs; intro hs)
              | (apply stepWith heq; (focus (with_reducible apply (hs.step ∘ (Grows.arrayElements (fun e _ => exprOK e) (Grows.refl _))); done)); clear hs; intro hs)
              | (apply stepWith heq; (focus (with_reducible apply (hs.step ∘ ((Grows.refl _).bindLiteralParameters)); done)); clear hs; intro hs)
              | (apply stepWith heq; (focus (with_reducible apply (hs.step ∘ (Grows.generateBlockStatement (fun s _ => stmtOK s) (Grows.refl _))); done)); clear hs; intro hs)
              | (apply stepWith heq; (focus (with_reducible apply (hs.step ∘ ((Grows.refl _).implicitReturn)); done)); clear hs; intro hs)
              | (apply stepWith heq; (focus (with_reducible apply (hs.step ∘ ((Grows.refl _).brIfOpen)); done)); clear hs; intro hs)
              | (apply stepWith heq; (focus (with_reducible apply (h.getOrDeclare); done)); clear h; intro h)
              | (apply stepWith heq; (focus (with_reducible apply (h.resolveCallee); done)); clear h; intro h)
              | (apply stepWith heq; (focus (with_reducible apply (h.generateStringLiteral); done)); clear h; intro h)
              | (apply stepWith heq; (focus (with_reducible apply (h.NewInst); done)); clear h; intro h)
              | (apply stepWith heq; (focus (with_reducible apply (h.NewStore); done)); clear h; intro h)
              | (apply stepWith heq; (focus (with_reducible apply (h.NewTerm); done)); clear h; intro h)
              | (apply stepWith heq; (focus (with_reducible apply (h.NewBlock); done)); clear h; intro h)
              | (apply stepWith heq; (focus (with_reducible apply (h.generateExpression); done)); clear h; intro h)
              | (apply stepWith heq; (focus (with_reducible apply (h.appendPrologue); done)); clear h; intro h)
              | (apply stepWith heq; (focus (with_reducible apply (h.appendEpilogue); done)); clear h; intro h)
              | (apply stepWith heq; (focus (with_reducible apply (h.generateBoundsCheck); done)); clear h; intro h)
              | (apply stepWith heq; (focus (with_reducible apply (Grows.appendElements (fun e _ => exprOK e) h); done)); clear h; intro h)
              | (apply stepWith heq; (focus (with_reducible apply (Grows.callArguments (fun e _ => exprOK e) h); done)); clear h; intro h)
              | (apply stepWith heq; (focus (with_reducible apply (Grows.printfArguments (fun e _ => exprOK e) h); done)); clear h; intro h)
              | (apply stepWith heq; (focus (with_reducible apply (Grows.arrayElements (fun e _ => exprOK e) h); done)); clear h; intro h)
              | (apply stepWith heq; (focus (with_reducible apply (h.bindLiteralParameters); done)); clear h; intro h)
              | (apply stepWith heq; (focus (with_reducible apply (Grows.generateBlockStatement (fun s _ => stmtOK s) h); done)); clear h; intro h)
              | (apply stepWith heq; (focus (with_reducible apply (h.implicitReturn); done)); clear h; intro h)
              | (apply stepWith heq; (focus (with_reducible apply (h.brIfOpen); done)); clear h; intro h)
              | fail))
    | (cases e; first | done | exact hs.extend | exact h.report _ | fail)
    | (dsimp only at e)
    | fail)

theorem Grows.printfCall_nil {a g x g' : IRGenerator} [Ext g x] {funcName : String} {printFunc : Nat} {formatParts : List String} {irArgs : List Value}
    (h : Grows a g) (e : Irgen.printfCall funcName printFunc formatParts irArgs x = .ok (none, g')) : Strict a g' := by
  replace h : Grows a x := h.ext
  unfold Irgen.printfCall at e
  try simp only [IRGenerator.NewAlloca, IRGenerator.NewLoad, IRGenerator.NewBin, IRGenerator.NewICmp, IRGenerator.NewFCmp, IRGenerator.NewGetElementPtr, IRGenerator.funcValue, NewCall_func, IRGenerator.NewCall, IRGenerator.NewZExt, IRGenerator.NewSelect, IRGenerator.NewBr, IRGenerator.NewCondBr, IRGenerator.NewRet, IRGenerator.NewUnreachable, IRGenerator.NewFunc, IRGenerator.NewGlobalDef] at e
  repeat' (first
    | (with_reducible first
        | (revert e; apply (hs.step ∘ ((Grows.refl _).NewInst)); done)
        | (revert e; apply (hs.step ∘ ((Grows.refl _).NewStore)); done)
        | (revert e; apply (hs.step ∘ ((Grows.refl _).NewTerm)); done)
        | (revert e; apply (hs.step ∘ ((Grows.refl _).NewBlock)); done)
        | (revert e; apply (hs.step ∘ ((Grows.refl _).generateExpression)); done)
        | (revert e; apply (hs.step ∘ ((Grows.refl _).appendPrologue)); done)
        | (revert e; apply (hs.step ∘ ((Grows.refl _).appendEpilogue)); done)
        | (revert e; apply (hs.step ∘ ((Grows.refl _).generateBoundsCheck)); done)
        | (revert e; apply (hs.step ∘ (Grows.appendElements (fun e _ => exprOK e) (Grows.refl _))); done)
        | (revert e; apply (hs.step ∘ (Grows.callArguments (fun e _ => exprOK e) (Grows.refl _))); done)
        | (revert e; apply (hs.step ∘ (Grows.printfArguments (fun e _ => exprOK e) (Grows.refl _))); done)
        | (revert e; apply (hs.step ∘ (Grows.arrayElements (fun e _ => exprOK e) (Grows.refl _))); done)
        | (revert e; apply (hs.step ∘ ((Grows.refl _).bindLiteralParameters)); done)
        | (revert e; apply (hs.step ∘ (Grows.generateBlockStatement (fun s _ => stmtOK s) (Grows.refl _))); done)
        | (revert e; apply (hs.step ∘ ((Grows.refl _).implicitReturn)); done)
        | (revert e; apply (hs.step ∘ ((Grows.refl _).brIfOpen)); done)
        | (revert e; apply (hs.step ∘ ((Grows.refl _).asResult)); done)
        | (revert e; apply (hs.step ∘ ((Grows.refl _).failWith)); done)
        | (revert e; apply (hs.step ∘ ((Grows.refl _).generateIdentifier)); done)
        | (revert e; apply (hs.step ∘ ((Grows.refl _).prefixOperator)); done)
        | (revert e; apply (hs.step ∘ ((Grows.refl _).generatePostfixExpression)); done)
        | (revert e; apply (hs.step ∘ ((Grows.refl _).generateStringConcatenation)); done)
        | (revert e; apply (hs.step ∘ ((Grows.refl _).infixOperator)); done)
        | (revert e; apply (hs.step ∘ ((Grows.refl _).indexAccess)); done)
        | (revert e; apply (hs.step ∘ ((Grows.refl _).lenOrCap)); done)
        | (revert e; apply (hs.step ∘ ((Grows.refl _).makeSlice)); done)
        | (revert e; apply (hs.step ∘ ((Grows.refl _).printfNoArguments)); done)
        | (revert e; apply (hs.step ∘ ((Grows.refl _).printfCall)); done)
        | (revert e; apply (hs.step ∘ (Grows.generateLenCall (fun e _ => exprOK e) (Grows.refl _))); done)
        | (revert e; apply (hs.step ∘ (Grows.generateCapCall (fun e _ => exprOK e) (Grows.refl _))); done)
        | (revert e; apply (hs.step ∘ (Grows.generateAppendCall (fun e _ => exprOK e) (Grows.refl _))); done)
        | (revert e; apply (hs.step ∘ (Grows.generateMakeCall (fun e _ => exprOK e) (Grows.refl _))); done)
        | (revert e; apply (hs.step ∘ (Grows.generateExitCall (fun e _ => exprOK e) (Grows.refl _))); done)
        | (revert e; apply (h.asResult_nil); done)
        | (revert e; apply (h.failWith_nil); done)
        | fail)
    | (apply stepWith e; (focus (with_reducible apply (@ite_ok _ _ _ _ _ _); done)); intro e2
       clear e
       rcases e2 with ⟨_, e⟩ | ⟨_, e⟩)
    | (simp only [bind_assoc, pure_bind] at e)
    | (rw [bind_ok] at e
       obtain ⟨⟨x1, g1⟩, e1, e⟩ := e
       try dsimp only at e
       first
         | (apply stepWith e1; (focus (with_reducible apply (hs.step ∘ ((Grows.refl _).NewInst)); done)); clear hs; intro hs)
         | (apply stepWith e1; (focus (with_reducible apply (hs.step ∘ ((Grows.refl _).NewStore)); done)); clear hs; intro hs)
         | (apply stepWith e1; (focus (with_reducible apply (hs.step ∘ ((Grows.refl _).NewTerm)); done)); clear hs; intro hs)
         | (apply stepWith e1; (focus (with_reducible apply (hs.step ∘ ((Grows.refl _).NewBlock)); done)); clear hs; intro hs)
         | (apply stepWith e1; (focus (with_reducible apply (hs.step ∘ ((Grows.refl _).generateExpression)); done)); clear hs; intro hs)
         | (apply stepWith e1; (focus (with_reducible apply (hs.step ∘ ((Grows.refl _).appendPrologue)); done)); clear hs; intro hs)
         | (apply stepWith e1; (focus (with_reducible apply (hs.step ∘ ((Grows.refl _).appendEpilogue)); done)); clear hs; intro hs)
         | (apply stepWith e1; (focus (with_reducible apply (hs.step ∘ ((Grows.refl _).generateBoundsCheck)); done)); clear hs; intro hs)
         | (apply stepWith e1; (focus (with_reducible apply (hs.step ∘ (Grows.appendElements (fun e _ => exprOK e) (Grows.refl _))); done)); clear hs; intro hs)
         | (apply stepWith e1; (focus (with_reducible apply (hs.step ∘ (Grows.callArguments (fun e _ => exprOK e) (Grows.refl _))); done)); clear hs; intro hs)
         | (apply stepWith e1; (focus (with_reducible apply (hs.step ∘ (Grows.printfArguments (fun e _ => exprOK e) (Grows.refl _))); done)); clear hs; intro hs)
         | (apply stepWith e1; (focus (with_reducible apply (hs.step ∘ (Grows.arrayElements (fun e _ => exprOK e) (Grows.refl _))); done)); clear hs; intro hs)
         | (apply stepWith e1; (focus (with_reducible apply (hs.step ∘ ((Grows.refl _).bindLiteralParameters)); done)); clear hs; intro hs)
         | (apply stepWith e1; (focus (with_reducible apply (hs.step ∘ (Grows.generateBlockStatement (fun s _ => stmtOK s) (Grows.refl _))); done)); clear hs; intro hs)
         | (apply stepWith e1; (focus (with_reducible apply (hs.step ∘ ((Grows.refl _).implicitReturn)); done)); clear hs; intro hs)
         | (apply stepWith e1; (focus (with_reducible apply (hs.step ∘ ((Grows.refl _).brIfOpen)); done)); clear hs; intro hs)
         | (apply stepWith e1; (focus (with_reducible apply (h.NewInst); done)); clear h; intro h)
         | (apply stepWith e1; (focus (with_reducible apply (h.NewStore); done)); clear h; intro h)
         | (apply stepWith e1; (focus (with_reducible apply (h.NewTerm); done)); clear h; intro h)
         | (apply stepWith e1; (focus (with_reducible apply (h.NewBlock); done)); clear h; intro h)
         | (apply stepWith e1; (focus (with_reducible apply (h.generateExpression); done)); clear h; intro h)
         | (apply stepWith e1; (focus (with_reducible apply (h.appendPrologue); done)); clear h; intro h)
         | (apply stepWith e1; (focus (with_reducible apply (h.appendEpilogue); done)); clear h; intro h)
         | (apply stepWith e1; (focus (with_reducible apply (h.generateBoundsCheck); done)); clear h; intro h)
         | (apply stepWith e1; (focus (with_reducible apply (Grows.appendElements (fun e _ => exprOK e) h); done)); clear h; intro h)
         | (apply stepWith e1; (focus (with_reducible apply (Grows.callArguments (fun e _ => exprOK e) h); done)); clear h; intro h)
         | (apply stepWith e1; (focus (with_reducible apply (Grows.printfArguments (fun e _ => exprOK e) h); done)); clear h; intro h)
         | (apply stepWith e1; (focus (with_reducible apply (Grows.arrayElements (fun e _ => exprOK e) h); done)); clear h; intro h)
         | (apply stepWith e1; (focus (with_reducible apply (h.bindLiteralParameters); done)); clear h; intro h)
         | (apply stepWith e1; (focus (with_reducible apply (Grows.generateBlockStatement (fun s _ => stmtOK s) h); done)); clear h; intro h)
         | (apply stepWith e1; (focus (with_reducible apply (h.implicitReturn); done)); clear h; intro h)
         | (apply stepWith e1; (focus (with_reducible apply (h.brIfOpen); done)); clear h; intro h)
         | (cases e1)
         | fail)
    | (split at e <;>
       try (rename_i heq
            first
              | (apply stepWith heq; (focus (with_reducible apply (hs.step ∘ ((Grows.refl _).getOrDeclare)); done)); clear hs; intro hs)
              | (apply stepWith heq; (focus (with_reducible apply (hs.step ∘ ((Grows.refl _).resolveCallee)); done)); clear hs; intro hs)
              | (apply stepWith heq; (focus (with_reducible apply (hs.step ∘ ((Grows.refl _).generateStringLiteral)); done)); clear hs; intro hs)
              | (apply stepWith heq; (focus (with_reducible apply (hs.step ∘ ((Grows.refl _).NewInst)); done)); clear hs; intro hs)
              | (apply stepWith heq; (focus (with_reducible apply (hs.step ∘ ((Grows.refl _).NewStore)); done)); clear hs; intro hs)
              | (apply stepWith heq; (focus (with_reducible apply (hs.step ∘ ((Grows.refl _).NewTerm)); done)); clear hs; intro hs)
              | (apply stepWith heq; (focus (with_reducible apply (hs.step ∘ ((Grows.refl _).NewBlock)); done)); clear hs; intro hs)
              | (apply stepWith heq; (focus (with_reducible apply (hs.step ∘ ((Grows.refl _).generateExpression)); done)); clear hs; intro hs)
              | (apply stepWith heq; (focus (with_reducible apply (hs.step ∘ ((Grows.refl _).appendPrologue)); done)); clear hs; intro hs)
              | (apply stepWith heq; (focus (with_reducible apply (hs.step ∘ ((Grows.refl _).appendEpilogue)); done)); clear hs; intro hs)
              | (apply stepWith heq; (focus (with_reducible apply (hs.step ∘ ((Grows.refl _).generateBoundsCheck)); done)); clear hs; intro hs)
              | (apply stepWith heq; (focus (with_reducible apply (hs.step ∘ (Grows.appendElements (fun e _ => exprOK e) (Grows.refl _))); done)); clear hs; intro hs)
              | (apply stepWith heq; (focus (with_reducible apply (hs.step ∘ (Grows.callArguments (fun e _ => exprOK e) (Grows.refl _))); done)); clear hs; intro hs)
              | (apply stepWith heq; (focus (with_reducible apply (hs.step ∘ (Grows.printfArguments (fun e _ => exprOK e) (Grows.refl _))); done)); clear hs; intro hs)
              | (apply stepWith heq; (focus (with_reducible apply (hs.step ∘ (Grows.arrayElements (fun e _ => exprOK e) (Grows.refl _))); done)); clear hs; intro hs)
              | (apply stepWith heq; (focus (with_reducible apply (hs.step ∘ ((Grows.refl _).bindLiteralParameters)); done)); clear hs; intro hs)
              | (apply stepWith heq; (focus (with_reducible apply (hs.step ∘ (Grows.generateBlockStatement (fun s _ => stmtOK s) (Grows.refl _))); done)); clear hs; intro hs)
              | (apply stepWith heq; (focus (with_reducible apply (hs.step ∘ ((Grows.refl _).implicitReturn)); done)); clear hs; intro hs)
              | (apply stepWith heq; (focus (with_reducible apply (hs.step ∘ ((Grows.refl _).brIfOpen)); done)); clear hs; intro hs)
              | (apply stepWith heq; (focus (with_reducible apply (h.getOrDeclare); done)); clear h; intro h)
              | (apply stepWith heq; (focus (with_reducible apply (h.resolveCallee); done)); clear h; intro h)
              | (apply stepWith heq; (focus (with_reducible apply (h.generateStringLiteral); done)); clear h; intro h)
              | (apply stepWith heq; (focus (with_reducible apply (h.NewInst); done)); clear h; intro h)
              | (apply stepWith heq; (focus (with_reducible apply (h.NewStore); done)); clear h; intro h)
              | (apply stepWith heq; (focus (with_reducible apply (h.NewTerm); done)); clear h; intro h)
              | (apply stepWith heq; (focus (with_reducible apply (h.NewBlock); done)); clear h; intro h)
              | (apply stepWith heq; (focus (with_reducible apply (h.generateExpression); done)); clear h; intro h)
              | (apply stepWith heq; (focus (with_reducible apply (h.appendPrologue); done)); clear h; intro h)
              | (apply stepWith heq; (focus (with_reducible apply (h.appendEpilogue); done)); clear h; intro h)
              | (apply stepWith heq; (focus (with_reducible apply (h.generateBoundsCheck); done)); clear h; intro h)
              | (apply stepWith heq; (focus (with_reducible apply (Grows.appendElements (fun e _ => exprOK e) h); done)); clear h; intro h)
              | (apply stepWith heq; (focus (with_reducible apply (Grows.callArguments (fun e _ => exprOK e) h); done)); clear h; intro h)
              | (apply stepWith heq; (focus (with_reducible apply (Grows.printfArguments (fun e _ => exprOK e) h); done)); clear h; intro h)
              | (apply stepWith heq; (focus (with_reducible apply (Grows.arrayElements (fun e _ => exprOK e) h); done)); clear h; intro h)
              | (apply stepWith heq; (focus (with_reducible apply (h.bindLiteralParameters); done)); clear h; intro h)
              | (apply stepWith heq; (focus (with_reducible apply (Grows.generateBlockStatement (fun s _ => stmtOK s) h); done)); clear h; intro h)
              | (apply stepWith heq; (focus (with_reducible apply (h.implicitReturn); done)); clear h; intro h)
              | (apply stepWith heq; (focus (with_reducible apply (h.brIfOpen); done)); clear h; intro h)
              | fail))
    | (cases e; first | done | exact hs.extend | exact h.report _ | fail)
    | (dsimp only at e)
    | fail)

theorem Grows.generateLenCall_nil {l : List Expression} (ih : ∀ a rest, l = a :: rest → NilOK a)
    {a g x g' : IRGenerator} [Ext g x] (h : Grows a g)
    (e : Irgen.generateLenCall l x = .ok (none, g')) : Strict a g' := by
  replace h : Grows a x := h.ext
  rcases l with _ | ⟨a0, _ | ⟨b, rest⟩⟩
  · rw [generateLenCall_nil_eq] at e
    try simp only [IRGenerator.NewAlloca, IRGenerator.NewLoad, IRGenerator.NewBin, IRGenerator.NewICmp, IRGenerator.NewFCmp, IRGenerator.NewGetElementPtr, IRGenerator.funcValue, NewCall_func, IRGenerator.NewCall, IRGenerator.NewZExt, IRGenerator.NewSelect, IRGenerator.NewBr, IRGenerator.NewCondBr, IRGenerator.NewRet, IRGenerator.NewUnreachable, IRGenerator.NewFunc, IRGenerator.NewGlobalDef] at e
    repeat' (first
      | (with_reducible first
          | (revert e; apply (hs.step ∘ ((Grows.refl _).NewInst)); done)
          | (revert e; apply (hs.step ∘ ((Grows.refl _).NewStore)); done)
          | (revert e; apply (hs.step ∘ ((Grows.refl _).NewTerm)); done)
          | (revert e; apply (hs.step ∘ ((Grows.refl _).NewBlock)); done)
          | (revert e; apply (hs.step ∘ ((Grows.refl _).generateExpression)); done)
          | (revert e; apply (hs.step ∘ ((Grows.refl _).appendPrologue)); done)
          | (revert e; apply (hs.step ∘ ((Grows.refl _).appendEpilogue)); done)
          | (revert e; apply (hs.step ∘ ((Grows.refl _).generateBoundsCheck)); done)
          | (revert e; apply (hs.step ∘ (Grows.appendElements (fun e _ => exprOK e) (Grows.refl _))); done)
          | (revert e; apply (hs.step ∘ (Grows.callArguments (fun e _ => exprOK e) (Grows.refl _))); done)
          | (revert e; apply (hs.step ∘ (Grows.printfArguments (fun e _ => exprOK e) (Grows.refl _))); done)
          | (revert e; apply (hs.step ∘ (Grows.arrayElements (fun e _ => exprOK e) (Grows.refl _))); done)
          | (revert e; apply (hs.step ∘ ((Grows.refl _).bindLiteralParameters)); done)
          | (revert e; apply (hs.step ∘ (Grows.generateBlockStatement (fun s _ => stmtOK s) (Grows.refl _))); done)
          | (revert e; apply (hs.step ∘ ((Grows.refl _).implicitReturn)); done)
          | (revert e; apply (hs.step ∘ ((Grows.refl _).brIfOpen)); done)
          | (revert e; apply (hs.step ∘ ((Grows.refl _).asResult)); done)
          | (revert e; apply (hs.step ∘ ((Grows.refl _).failWith)); done)
          | (revert e; apply (hs.step ∘ ((Grows.refl _).generateIdentifier)); done)
          | (revert e; apply (hs.step ∘ ((Grows.refl _).prefixOperator)); done)
          | (revert e; apply (hs.step ∘ ((Grows.refl _).generatePostfixExpression)); done)
          | (revert e; apply (hs.step ∘ ((Grows.refl _).generateStringConcatenation)); done)
          | (revert e; apply (hs.step ∘ ((Grows.refl _).infixOperator)); done)
          | (revert e; apply (hs.step ∘ ((Grows.refl _).indexAccess)); done)
          | (revert e; apply (hs.step ∘ ((Grows.refl _).lenOrCap)); done)
          | (revert e; apply (hs.step ∘ ((Grows.refl _).makeSlice)); done)
          | (revert e; apply (hs.step ∘ ((Grows.refl _).printfNoArguments)); done)
          | (revert e; apply (hs.step ∘ ((Grows.refl _).printfCall)); done)
          | (revert e; apply (hs.step ∘ (Grows.generateLenCall (fun e _ => exprOK e) (Grows.refl _))); done)
          | (revert e; apply (hs.step ∘ (Grows.generateCapCall (fun e _ => exprOK e) (Grows.refl _))); done)
          | (revert e; apply (hs.step ∘ (Grows.generateAppendCall (fun e _ => exprOK e) (Grows.refl _))); done)
          | (revert e; apply (hs.step ∘ (Grows.generateMakeCall (fun e _ => exprOK e) (Grows.refl _))); done)
          | (revert e; apply (hs.step ∘ (Grows.generateExitCall (fun e _ => exprOK e) (Grows.refl _))); done)
          | (revert e; apply (h.asResult_nil); done)
          | (revert e; apply (h.failWith_nil); done)
          | fail)
      | (apply stepWith e; (focus (with_reducible apply (@ite_ok _ _ _ _ _ _); done)); intro e2
         clear e
         rcases e2 with ⟨_, e⟩ | ⟨_, e⟩)
      | (simp only [bind_assoc, pure_bind] at e)
      | (rw [bind_ok] at e
         obtain ⟨⟨x1, g1⟩, e1, e⟩ := e
         try dsimp only at e
         first
           | (apply stepWith e1; (focus (with_reducible apply (hs.step ∘ ((Grows.refl _).NewInst)); done)); clear hs; intro hs)
           | (apply stepWith e1; (focus (with_reducible apply (hs.step ∘ ((Grows.refl _).NewStore)); done)); clear hs; intro hs)
           | (apply stepWith e1; (focus (with_reducible apply (hs.step ∘ ((Grows.refl _).NewTerm)); done)); clear hs; intro hs)
           | (apply stepWith e1; (focus (with_reducible apply (hs.step ∘ ((Grows.refl _).NewBlock)); done)); clear hs; intro hs)
           | (apply stepWith e1; (focus (with_reducible apply (hs.step ∘ ((Grows.refl _).generateExpression)); done)); clear hs; intro hs)
           | (apply stepWith e1; (focus (with_reducible apply (hs.step ∘ ((Grows.refl _).appendPrologue)); done)); clear hs; intro hs)
           | (apply stepWith e1; (focus (with_reducible apply (hs.step ∘ ((Grows.refl _).appendEpilogue)); done)); clear hs; intro hs)
           | (apply stepWith e1; (focus (with_reducible apply (hs.step ∘ ((Grows.refl _).generateBoundsCheck)); done)); clear hs; intro hs)
           | (apply stepWith e1; (focus (with_reducible apply (hs.step ∘ (Grows.appendElements (fun e _ => exprOK e) (Grows.refl _))); done)); clear hs; intro hs)
           | (apply stepWith e1; (focus (with_reducible apply (hs.step ∘ (Grows.callArguments (fun e _ => exprOK e) (Grows.refl _))); done)); clear hs; intro hs)
           | (apply stepWith e1; (focus (with_reducible apply (hs.step ∘ (Grows.printfArguments (fun e _ => exprOK e) (Grows.refl _))); done)); clear hs; intro hs)
           | (apply stepWith e1; (focus (with_reducible apply (hs.step ∘ (Grows.arrayElements (fun e _ => exprOK e) (Grows.refl _))); done)); clear hs; intro hs)
           | (apply stepWith e1; (focus (with_reducible apply (hs.step ∘ ((Grows.refl _).bindLiteralParameters)); done)); clear hs; intro hs)
           | (apply stepWith e1; (focus (with_reducible apply (hs.step ∘ (Grows.generateBlockStatement (fun s _ => stmtOK s) (Grows.refl _))); done)); clear hs; intro hs)
           | (apply stepWith e1; (focus (with_reducible apply (hs.step ∘ ((Grows.refl _).implicitReturn)); done)); clear hs; intro hs)
           | (apply stepWith e1; (focus (with_reducible apply (hs.step ∘ ((Grows.refl _).brIfOpen)); done)); clear hs; intro hs)
           | (apply stepWith e1; (focus (with_reducible apply (h.NewInst); done)); clear h; intro h)
           | (apply stepWith e1; (focus (with_reducible apply (h.NewStore); done)); clear h; intro h)
           | (apply stepWith e1; (focus (with_reducible apply (h.NewTerm); done)); clear h; intro h)
           | (apply stepWith e1; (focus (with_reducible apply (h.NewBlock); done)); clear h; intro h)
           | (apply stepWith e1; (focus (with_reducible apply (h.generateExpression); done)); clear h; intro h)
           | (apply stepWith e1; (focus (with_reducible apply (h.appendPrologue); done)); clear h; intro h)
           | (apply stepWith e1; (focus (with_reducible apply (h.appendEpilogue); done)); clear h; intro h)
           | (apply stepWith e1; (focus (with_reducible apply (h.generateBoundsCheck); done)); clear h; intro h)
           | (apply stepWith e1; (focus (with_reducible apply (Grows.appendElements (fun e _ => exprOK e) h); done)); clear h; intro h)
           | (apply stepWith e1; (focus (with_reducible apply (Grows.callArguments (fun e _ => exprOK e) h); done)); clear h; intro h)
           | (apply stepWith e1; (focus (with_reducible apply (Grows.printfArguments (fun e _ => exprOK e) h); done)); clear h; intro h)
           | (apply stepWith e1; (focus (with_reducible apply (Grows.arrayElements (fun e _ => exprOK e) h); done)); clear h; intro h)
           | (apply stepWith e1; (focus (with_reducible apply (h.bindLiteralParameters); done)); clear h; intro h)
           | (apply stepWith e1; (focus (with_reducible apply (Grows.generateBlockStatement (fun s _ => stmtOK s) h); done)); clear h; intro h)
           | (apply stepWith e1; (focus (with_reducible apply (h.implicitReturn); done)); clear h; intro h)
           | (apply stepWith e1; (focus (with_reducible apply (h.brIfOpen); done)); clear h; intro h)
           | (cases e1)
           | fail)
      | (split at e <;>
         try (rename_i heq
              first
                | (apply stepWith heq; (focus (with_reducible apply (hs.step ∘ ((Grows.refl _).getOrDeclare)); done)); clear hs; intro hs)
                | (apply stepWith heq; (focus (with_reducible apply (hs.step ∘ ((Grows.refl _).resolveCallee)); done)); clear hs; intro hs)
                | (apply stepWith heq; (focus (with_reducible apply (hs.step ∘ ((Grows.refl _).generateStringLiteral)); done)); clear hs; intro hs)
                | (apply stepWith heq; (focus (with_reducible apply (hs.step ∘ ((Grows.refl _).NewInst)); done)); clear hs; intro hs)
                | (apply stepWith heq; (focus (with_reducible apply (hs.step ∘ ((Grows.refl _).NewStore)); done)); clear hs; intro hs)
                | (apply stepWith heq; (focus (with_reducible apply (hs.step ∘ ((Grows.refl _).NewTerm)); done)); clear hs; intro hs)
                | (apply stepWith heq; (focus (with_reducible apply (hs.step ∘ ((Grows.refl _).NewBlock)); done)); clear hs; intro hs)
                | (apply stepWith heq; (focus (with_reducible apply (hs.step ∘ ((Grows.refl _).generateExpression)); done)); clear hs; intro hs)
                | (apply stepWith heq; (focus (with_reducible apply (hs.step ∘ ((Grows.refl _).appendPrologue)); done)); clear hs; intro hs)
                | (apply stepWith heq; (focus (with_reducible apply (hs.step ∘ ((Grows.refl _).appendEpilogue)); done)); clear hs; intro hs)
                | (apply stepWith heq; (focus (with_reducible apply (hs.step ∘ ((Grows.refl _).generateBoundsCheck)); done)); clear hs; intro hs)
                | (apply stepWith heq; (focus (with_reducible apply (hs.step ∘ (Grows.appendElements (fun e _ => exprOK e) (Grows.refl _))); done)); clear hs; intro hs)
                | (apply stepWith heq; (focus (with_reducible apply (hs.step ∘ (Grows.callArguments (fun e _ => exprOK e) (Grows.refl _))); done)); clear hs; intro hs)
                | (apply stepWith heq; (focus (with_reducible apply (hs.step ∘ (Grows.printfArguments (fun e _ => exprOK e) (Grows.refl _))); done)); clear hs; intro hs)
                | (apply stepWith heq; (focus (with_reducible apply (hs.step ∘ (Grows.arrayElements (fun e _ => exprOK e) (Grows.refl _))); done)); clear hs; intro hs)
                | (apply stepWith heq; (focus (with_reducible apply (hs.step ∘ ((Grows.refl _).bindLiteralParameters)); done)); clear hs; intro hs)
                | (apply stepWith heq; (focus (with_reducible apply (hs.step ∘ (Grows.generateBlockStatement (fun s _ => stmtOK s) (Grows.refl _))); done)); clear hs; intro hs)
                | (apply stepWith heq; (focus (with_reducible apply (hs.step ∘ ((Grows.refl _).implicitReturn)); done)); clear hs; intro hs)
                | (apply stepWith heq; (focus (with_reducible apply (hs.step ∘ ((Grows.refl _).brIfOpen)); done)); clear hs; intro hs)
                | (apply stepWith heq; (focus (with_reducible apply (h.getOrDeclare); done)); clear h; intro h)
                | (apply stepWith heq; (focus (with_reducible apply (h.resolveCallee); done)); clear h; intro h)
                | (apply stepWith heq; (focus (with_reducible apply (h.generateStringLiteral); done)); clear h; intro h)
                | (apply stepWith heq; (focus (with_reducible apply (h.NewInst); done)); clear h; intro h)
                | (apply stepWith heq; (focus (with_reducible apply (h.NewStore); done)); clear h; intro h)
                | (apply stepWith heq; (focus (with_reducible apply (h.NewTerm); done)); clear h; intro h)
                | (apply stepWith heq; (focus (with_reducible apply (h.NewBlock); done)); clear h; intro h)
                | (apply stepWith heq; (focus (with_reducible apply (h.generateExpression); done)); clear h; intro h)
                | (apply stepWith heq; (focus (with_reducible apply (h.appendPrologue); done)); clear h; intro h)
                | (apply stepWith heq; (focus (with_reducible apply (h.appendEpilogue); done)); clear h; intro h)
                | (apply stepWith heq; (focus (with_reducible apply (h.generateBoundsCheck); done)); clear h; intro h)
                | (apply stepWith heq; (focus (with_reducible apply (Grows.appendElements (fun e _ => exprOK e) h); done)); clear h; intro h)
                | (apply stepWith heq; (focus (with_reducible apply (Grows.callArguments (fun e _ => exprOK e) h); done)); clear h; intro h)
                | (apply stepWith heq; (focus (with_reducible apply (Grows.printfArguments (fun e _ => exprOK e) h); done)); clear h; intro h)
                | (apply stepWith heq; (focus (with_reducible apply (Grows.arrayElements (fun e _ => exprOK e) h); done)); clear h; intro h)
                | (apply stepWith heq; (focus (with_reducible apply (h.bindLiteralParameters); done)); clear h; intro h)
                | (apply stepWith heq; (focus (with_reducible apply (Grows.generateBlockStatement (fun s _ => stmtOK s) h); done)); clear h; intro h)
                | (apply stepWith heq; (focus (with_reducible apply (h.implicitReturn); done)); clear h; intro h)
                | (apply stepWith heq; (focus (with_reducible apply (h.brIfOpen); done)); clear h; intro h)
                | fail))
      | (cases e; first | done | exact hs.extend | exact h.report _ | fail)
      | (dsimp only at e)
      | fail)
  · rw [generateLenCall_one_eq] at e
    have ih0 := ih _ _ rfl
    try simp only [IRGenerator.NewAlloca, IRGenerator.NewLoad, IRGenerator.NewBin, IRGenerator.NewICmp, IRGenerator.NewFCmp, IRGenerator.NewGetElementPtr, IRGenerator.funcValue, NewCall_func, IRGenerator.NewCall, IRGenerator.NewZExt, IRGenerator.NewSelect, IRGenerator.NewBr, IRGenerator.NewCondBr, IRGenerator.NewRet, IRGenerator.NewUnreachable, IRGenerator.NewFunc, IRGenerator.NewGlobalDef] at e
    repeat' (first
      | (with_reducible first
          | (revert e; apply (hs.step ∘ ((Grows.refl _).NewInst)); done)
          | (revert e; apply (hs.step ∘ ((Grows.refl _).NewStore)); done)
          | (revert e; apply (hs.step ∘ ((Grows.refl _).NewTerm)); done)
          | (revert e; apply (hs.step ∘ ((Grows.refl _).NewBlock)); done)
          | (revert e; apply (hs.step ∘ ((Grows.refl _).generateExpression)); done)
          | (revert e; apply (hs.step ∘ ((Grows.refl _).appendPrologue)); done)
          | (revert e; apply (hs.step ∘ ((Grows.refl _).appendEpilogue)); done)
          | (revert e; apply (hs.step ∘ ((Grows.refl _).generateBoundsCheck)); done)
          | (revert e; apply (hs.step ∘ (Grows.appendElements (fun e _ => exprOK e) (Grows.refl _))); done)
          | (revert e; apply (hs.step ∘ (Grows.callArguments (fun e _ => exprOK e) (Grows.refl _))); done)
          | (revert e; apply (hs.step ∘ (Grows.printfArguments (fun e _ => exprOK e) (Grows.refl _))); done)
          | (revert e; apply (hs.step ∘ (Grows.arrayElements (fun e _ => exprOK e) (Grows.refl _))); done)
          | (revert e; apply (hs.step ∘ ((Grows.refl _).bindLiteralParameters)); done)
          | (revert e; apply (hs.step ∘ (Grows.generateBlockStatement (fun s _ => stmtOK s) (Grows.refl _))); done)
          | (revert e; apply (hs.step ∘ ((Grows.refl _).implicitReturn)); done)
          | (revert e; apply (hs.step ∘ ((Grows.refl _).brIfOpen)); done)
          | (revert e; apply (hs.step ∘ ((Grows.refl _).asResult)); done)
          | (revert e; apply (hs.step ∘ ((Grows.refl _).failWith)); done)
          | (revert e; apply (hs.step ∘ ((Grows.refl _).generateIdentifier)); done)
          | (revert e; apply (hs.step ∘ ((Grows.refl _).prefixOperator)); done)
          | (revert e; apply (hs.step ∘ ((Grows.refl _).generatePostfixExpression)); done)
          | (revert e; apply (hs.step ∘ ((Grows.refl _).generateStringConcatenation)); done)
          | (revert e; apply (hs.step ∘ ((Grows.refl _).infixOperator)); done)
          | (revert e; apply (hs.step ∘ ((Grows.refl _).indexAccess)); done)
          | (revert e; apply (hs.step ∘ ((Grows.refl _).lenOrCap)); done)
          | (revert e; apply (hs.step ∘ ((Grows.refl _).makeSlice)); done)
          | (revert e; apply (hs.step ∘ ((Grows.refl _).printfNoArguments)); done)
          | (revert e; apply (hs.step ∘ ((Grows.refl _).printfCall)); done)
          | (revert e; apply (hs.step ∘ (Grows.generateLenCall (fun e _ => exprOK e) (Grows.refl _))); done)
          | (revert e; apply (hs.step ∘ (Grows.generateCapCall (fun e _ => exprOK e) (Grows.refl _))); done)
          | (revert e; apply (hs.step ∘ (Grows.generateAppendCall (fun e _ => exprOK e) (Grows.refl _))); done)
          | (revert e; apply (hs.step ∘ (Grows.generateMakeCall (fun e _ => exprOK e) (Grows.refl _))); done)
          | (revert e; apply (hs.step ∘ (Grows.generateExitCall (fun e _ => exprOK e) (Grows.refl _))); done)
          | (revert e; apply (h.asResult_nil); done)
          | (revert e; apply (h.failWith_nil); done)
          | (revert e; apply (h.lenOrCap_nil); done)
          | (revert e; apply (h.strict ∘ (ih0.strict)); done)
          | fail)
      | (apply stepWith e; (focus (with_reducible apply (@ite_ok _ _ _ _ _ _); done)); intro e2
         clear e
         rcases e2 with ⟨_, e⟩ | ⟨_, e⟩)
      | (simp only [bind_assoc, pure_bind] at e)
      | (rw [bind_ok] at e
         obtain ⟨⟨x1, g1⟩, e1, e⟩ := e
         try dsimp only at e
         first
           | (apply stepWith e1; (focus (with_reducible apply (hs.step ∘ ((Grows.refl _).NewInst)); done)); clear hs; intro hs)
           | (apply stepWith e1; (focus (with_reducible apply (hs.step ∘ ((Grows.refl _).NewStore)); done)); clear hs; intro hs)
           | (apply stepWith e1; (focus (with_reducible apply (hs.step ∘ ((Grows.refl _).NewTerm)); done)); clear hs; intro hs)
           | (apply stepWith e1; (focus (with_reducible apply (hs.step ∘ ((Grows.refl _).NewBlock)); done)); clear hs; intro hs)
           | (apply stepWith e1; (focus (with_reducible apply (hs.step ∘ ((Grows.refl _).generateExpression)); done)); clear hs; intro hs)
           | (apply stepWith e1; (focus (with_reducible apply (hs.step ∘ ((Grows.refl _).appendPrologue)); done)); clear hs; intro hs)
           | (apply stepWith e1; (focus (with_reducible apply (hs.step ∘ ((Grows.refl _).appendEpilogue)); done)); clear hs; intro hs)
           | (apply stepWith e1; (focus (with_reducible apply (hs.step ∘ ((Grows.refl _).generateBoundsCheck)); done)); clear hs; intro hs)
           | (apply stepWith e1; (focus (with_reducible apply (hs.step ∘ (Grows.appendElements (fun e _ => exprOK e) (Grows.refl _))); done)); clear hs; intro hs)
           | (apply stepWith e1; (focus (with_reducible apply (hs.step ∘ (Grows.callArguments (fun e _ => exprOK e) (Grows.refl _))); done)); clear hs; intro hs)
           | (apply stepWith e1; (focus (with_reducible apply (hs.step ∘ (Grows.printfArguments (fun e _ => exprOK e) (Grows.refl _))); done)); clear hs; intro hs)
           | (apply stepWith e1; (focus (with_reducible apply (hs.step ∘ (Grows.arrayElements (fun e _ => exprOK e) (Grows.refl _))); done)); clear hs; intro hs)
           | (apply stepWith e1; (focus (with_reducible apply (hs.step ∘ ((Grows.refl _).bindLiteralParameters)); done)); clear hs; intro hs)
           | (apply stepWith e1; (focus (with_reducible apply (hs.step ∘ (Grows.generateBlockStatement (fun s _ => stmtOK s) (Grows.refl _))); done)); clear hs; intro hs)
           | (apply stepWith e1; (focus (with_reducible apply (hs.step ∘ ((Grows.refl _).implicitReturn)); done)); clear hs; intro hs)
           | (apply stepWith e1; (focus (with_reducible apply (hs.step ∘ ((Grows.refl _).brIfOpen)); done)); clear hs; intro hs)
           | (have hg := h.generateExpressionOf a0 e1
              rcases x1 with _ | v1 <;>
                first | (have hs := h.strict (ih0.strict e1)) | (replace h := hg))
           | (apply stepWith e1; (focus (with_reducible apply (h.NewInst); done)); clear h; intro h)
           | (apply stepWith e1; (focus (with_reducible apply (h.NewStore); done)); clear h; intro h)
           | (apply stepWith e1; (focus (with_reducible apply (h.NewTerm); done)); clear h; intro h)
           | (apply stepWith e1; (focus (with_reducible apply (h.NewBlock); done)); clear h; intro h)
           | (apply stepWith e1; (focus (with_reducible apply (h.generateExpression); done)); clear h; intro h)
           | (apply stepWith e1; (focus (with_reducible apply (h.appendPrologue); done)); clear h; intro h)
           | (apply stepWith e1; (focus (with_reducible apply (h.appendEpilogue); done)); clear h; intro h)
           | (apply stepWith e1; (focus (with_reducible apply (h.generateBoundsCheck); done)); clear h; intro h)
           | (apply stepWith e1; (focus (with_reducible apply (Grows.appendElements (fun e _ => exprOK e) h); done)); clear h; intro h)
           | (apply stepWith e1; (focus (with_reducible apply (Grows.callArguments (fun e _ => exprOK e) h); done)); clear h; intro h)
           | (apply stepWith e1; (focus (with_reducible apply (Grows.printfArguments (fun e _ => exprOK e) h); done)); clear h; intro h)
           | (apply stepWith e1; (focus (with_reducible apply (Grows.arrayElements (fun e _ => exprOK e) h); done)); clear h; intro h)
           | (apply stepWith e1; (focus (with_reducible apply (h.bindLiteralParameters); done)); clear h; intro h)
           | (apply stepWith e1; (focus (with_reducible apply (Grows.generateBlockStatement (fun s _ => stmtOK s) h); done)); clear h; intro h)
           | (apply stepWith e1; (focus (with_reducible apply (h.implicitReturn); done)); clear h; intro h)
           | (apply stepWith e1; (focus (with_reducible apply (h.brIfOpen); done)); clear h; intro h)
           | (cases e1)
           | fail)
      | (split at e <;>
         try (rename_i heq
              first
                | (apply stepWith heq; (focus (with_reducible apply (hs.step ∘ ((Grows.refl _).getOrDeclare)); done)); clear hs; intro hs)
                | (apply stepWith heq; (focus (with_reducible apply (hs.step ∘ ((Grows.refl _).resolveCallee)); done)); clear hs; intro hs)
                | (apply stepWith heq; (focus (with_reducible apply (hs.step ∘ ((Grows.refl _).generateStringLiteral)); done)); clear hs; intro hs)
                | (apply stepWith heq; (focus (with_reducible apply (hs.step ∘ ((Grows.refl _).NewInst)); done)); clear hs; intro hs)
                | (apply stepWith heq; (focus (with_reducible apply (hs.step ∘ ((Grows.refl _).NewStore)); done)); clear hs; intro hs)
                | (apply stepWith heq; (focus (with_reducible apply (hs.step ∘ ((Grows.refl _).NewTerm)); done)); clear hs; intro hs)
                | (apply stepWith heq; (focus (with_reducible apply (hs.step ∘ ((Grows.refl _).NewBlock)); done)); clear hs; intro hs)
                | (apply stepWith heq; (focus (with_reducible apply (hs.step ∘ ((Grows.refl _).generateExpression)); done)); clear hs; intro hs)
                | (apply stepWith heq; (focus (with_reducible apply (hs.step ∘ ((Grows.refl _).appendPrologue)); done)); clear hs; intro hs)
                | (apply stepWith heq; (focus (with_reducible apply (hs.step ∘ ((Grows.refl _).appendEpilogue)); done)); clear hs; intro hs)
                | (apply stepWith heq; (focus (with_reducible apply (hs.step ∘ ((Grows.refl _).generateBoundsCheck)); done)); clear hs; intro hs)
                | (apply stepWith heq; (focus (with_reducible apply (hs.step ∘ (Grows.appendElements (fun e _ => exprOK e) (Grows.refl _))); done)); clear hs; intro hs)
                | (apply stepWith heq; (focus (with_reducible apply (hs.step ∘ (Grows.callArguments (fun e _ => exprOK e) (Grows.refl _))); done)); clear hs; intro hs)
                | (apply stepWith heq; (focus (with_reducible apply (hs.step ∘ (Grows.printfArguments (fun e _ => exprOK e) (Grows.refl _))); done)); clear hs; intro hs)
                | (apply stepWith heq; (focus (with_reducible apply (hs.step ∘ (Grows.arrayElements (fun e _ => exprOK e) (Grows.refl _))); done)); clear hs; intro hs)
                | (apply stepWith heq; (focus (with_reducible apply (hs.step ∘ ((Grows.refl _).bindLiteralParameters)); done)); clear hs; intro hs)
                | (apply stepWith heq; (focus (with_reducible apply (hs.step ∘ (Grows.generateBlockStatement (fun s _ => stmtOK s) (Grows.refl _))); done)); clear hs; intro hs)
                | (apply stepWith heq; (focus (with_reducible apply (hs.step ∘ ((Grows.refl _).implicitReturn)); done)); clear hs; intro hs)
                | (apply stepWith heq; (focus (with_reducible apply (hs.step ∘ ((Grows.refl _).brIfOpen)); done)); clear hs; intro hs)
                | (apply stepWith heq; (focus (with_reducible apply (h.getOrDeclare); done)); clear h; intro h)
                | (apply stepWith heq; (focus (with_reducible apply (h.resolveCallee); done)); clear h; intro h)
                | (apply stepWith heq; (focus (with_reducible apply (h.generateStringLiteral); done)); clear h; intro h)
                | (apply stepWith heq; (focus (with_reducible apply (h.NewInst); done)); clear h; intro h)
                | (apply stepWith heq; (focus (with_reducible apply (h.NewStore); done)); clear h; intro h)
                | (apply stepWith heq; (focus (with_reducible apply (h.NewTerm); done)); clear h; intro h)
                | (apply stepWith heq; (focus (with_reducible apply (h.NewBlock); done)); clear h; intro h)
                | (apply stepWith heq; (focus (with_reducible apply (h.generateExpression); done)); clear h; intro h)
                | (apply stepWith heq; (focus (with_reducible apply (h.appendPrologue); done)); clear h; intro h)
                | (apply stepWith heq; (focus (with_reducible apply (h.appendEpilogue); done)); clear h; intro h)
                | (apply stepWith heq; (focus (with_reducible apply (h.generateBoundsCheck); done)); clear h; intro h)
                | (apply stepWith heq; (focus (with_reducible apply (Grows.appendElements (fun e _ => exprOK e) h); done)); clear h; intro h)
                | (apply stepWith heq; (focus (with_reducible apply (Grows.callArguments (fun e _ => exprOK e) h); done)); clear h; intro h)
                | (apply stepWith heq; (focus (with_reducible apply (Grows.printfArguments (fun e _ => exprOK e) h); done)); clear h; intro h)
                | (apply stepWith heq; (focus (with_reducible apply (Grows.arrayElements (fun e _ => exprOK e) h); done)); clear h; intro h)
                | (apply stepWith heq; (focus (with_reducible apply (h.bindLiteralParameters); done)); clear h; intro h)
                | (apply stepWith heq; (focus (with_reducible apply (Grows.generateBlockStatement (fun s _ => stmtOK s) h); done)); clear h; intro h)
                | (apply stepWith heq; (focus (with_reducible apply (h.implicitReturn); done)); clear h; intro h)
                | (apply stepWith heq; (focus (with_reducible apply (h.brIfOpen); done)); clear h; intro h)
                | fail))
      | (cases e; first | done | exact hs.extend | exact h.report _ | fail)
      | (dsimp only at e)
      | fail)
  · rw [generateLenCall_more_eq] at e
    try simp only [IRGenerator.NewAlloca, IRGenerator.NewLoad, IRGenerator.NewBin, IRGenerator.NewICmp, IRGenerator.NewFCmp, IRGenerator.NewGetElementPtr, IRGenerator.funcValue, NewCall_func, IRGenerator.NewCall, IRGenerator.NewZExt, IRGenerator.NewSelect, IRGenerator.NewBr, IRGenerator.NewCondBr, IRGenerator.NewRet, IRGenerator.NewUnreachable, IRGenerator.NewFunc, IRGenerator.NewGlobalDef] at e
    repeat' (first
      | (with_reducible first
          | (revert e; apply (hs.step ∘ ((Grows.refl _).NewInst)); done)
          | (revert e; apply (hs.step ∘ ((Grows.refl _).NewStore)); done)
          | (revert e; apply (hs.step ∘ ((Grows.refl _).NewTerm)); done)
          | (revert e; apply (hs.step ∘ ((Grows.refl _).NewBlock)); done)
          | (revert e; apply (hs.step ∘ ((Grows.refl _).generateExpression)); done)
          | (revert e; apply (hs.step ∘ ((Grows.refl _).appendPrologue)); done)
          | (revert e; apply (hs.step ∘ ((Grows.refl _).appendEpilogue)); done)
          | (revert e; apply (hs.step ∘ ((Grows.refl _).generateBoundsCheck)); done)
          | (revert e; apply (hs.step ∘ (Grows.appendElements (fun e _ => exprOK e) (Grows.refl _))); done)
          | (revert e; apply (hs.step ∘ (Grows.callArguments (fun e _ => exprOK e) (Grows.refl _))); done)
          | (revert e; apply (hs.step ∘ (Grows.printfArguments (fun e _ => exprOK e) (Grows.refl _))); done)
          | (revert e; apply (hs.step ∘ (Grows.arrayElements (fun e _ => exprOK e) (Grows.refl _))); done)
          | (revert e; apply (hs.step ∘ ((Grows.refl _).bindLiteralParameters)); done)
          | (revert e; apply (hs.step ∘ (Grows.generateBlockStatement (fun s _ => stmtOK s) (Grows.refl _))); done)
          | (revert e; apply (hs.step ∘ ((Grows.refl _).implicitReturn)); done)
          | (revert e; apply (hs.step ∘ ((Grows.refl _).brIfOpen)); done)
          | (revert e; apply (hs.step ∘ ((Grows.refl _).asResult)); done)
          | (revert e; apply (hs.step ∘ ((Grows.refl _).failWith)); done)
          | (revert e; apply (hs.step ∘ ((Grows.refl _).generateIdentifier)); done)
          | (revert e; apply (hs.step ∘ ((Grows.refl _).prefixOperator)); done)
          | (revert e; apply (hs.step ∘ ((Grows.refl _).generatePostfixExpression)); done)
          | (revert e; apply (hs.step ∘ ((Grows.refl _).generateStringConcatenation)); done)
          | (revert e; apply (hs.step ∘ ((Grows.refl _).infixOperator)); done)
          | (revert e; apply (hs.step ∘ ((Grows.refl _).indexAccess)); done)
          | (revert e; apply (hs.step ∘ ((Grows.refl _).lenOrCap)); done)
          | (revert e; apply (hs.step ∘ ((Grows.refl _).makeSlice)); done)
          | (revert e; apply (hs.step ∘ ((Grows.refl _).printfNoArguments)); done)
          | (revert e; apply (hs.step ∘ ((Grows.refl _).printfCall)); done)
          | (revert e; apply (hs.step ∘ (Grows.generateLenCall (fun e _ => exprOK e) (Grows.refl _))); done)
          | (revert e; apply (hs.step ∘ (Grows.generateCapCall (fun e _ => exprOK e) (Grows.refl _))); done)
          | (revert e; apply (hs.step ∘ (Grows.generateAppendCall (fun e _ => exprOK e) (Grows.refl _))); done)
          | (revert e; apply (hs.step ∘ (Grows.generateMakeCall (fun e _ => exprOK e) (Grows.refl _))); done)
          | (revert e; apply (hs.step ∘ (Grows.generateExitCall (fun e _ => exprOK e) (Grows.refl _))); done)
          | (revert e; apply (h.asResult_nil); done)
          | (revert e; apply (h.failWith_nil); done)
          | fail)
      | (apply stepWith e; (focus (with_reducible apply (@ite_ok _ _ _ _ _ _); done)); intro e2
         clear e
         rcases e2 with ⟨_, e⟩ | ⟨_, e⟩)
      | (simp only [bind_assoc, pure_bind] at e)
      | (rw [bind_ok] at e
         obtain ⟨⟨x1, g1⟩, e1, e⟩ := e
         try dsimp only at e
         first
           | (apply stepWith e1; (focus (with_reducible apply (hs.step ∘ ((Grows.refl _).NewInst)); done)); clear hs; intro hs)
           | (apply stepWith e1; (focus (with_reducible apply (hs.step ∘ ((Grows.refl _).NewStore)); done)); clear hs; intro hs)
           | (apply stepWith e1; (focus (with_reducible apply (hs.step ∘ ((Grows.refl _).NewTerm)); done)); clear hs; intro hs)
           | (apply stepWith e1; (focus (with_reducible apply (hs.step ∘ ((Grows.refl _).NewBlock)); done)); clear hs; intro hs)
           | (apply stepWith e1; (focus (with_reducible apply (hs.step ∘ ((Grows.refl _).generateExpression)); done)); clear hs; intro hs)
           | (apply stepWith e1; (focus (with_reducible apply (hs.step ∘ ((Grows.refl _).appendPrologue)); done)); clear hs; intro hs)
           | (apply stepWith e1; (focus (with_reducible apply (hs.step ∘ ((Grows.refl _).appendEpilogue)); done)); clear hs; intro hs)
           | (apply stepWith e1; (focus (with_reducible apply (hs.step ∘ ((Grows.refl _).generateBoundsCheck)); done)); clear hs; intro hs)
           | (apply stepWith e1; (focus (with_reducible apply (hs.step ∘ (Grows.appendElements (fun e _ => exprOK e) (Grows.refl _))); done)); clear hs; intro hs)
           | (apply stepWith e1; (focus (with_reducible apply (hs.step ∘ (Grows.callArguments (fun e _ => exprOK e) (Grows.refl _))); done)); clear hs; intro hs)
           | (apply stepWith e1; (focus (with_reducible apply (hs.step ∘ (Grows.printfArguments (fun e _ => exprOK e) (Grows.refl _))); done)); clear hs; intro hs)
           | (apply stepWith e1; (focus (with_reducible apply (hs.step ∘ (Grows.arrayElements (fun e _ => exprOK e) (Grows.refl _))); done)); clear hs; intro hs)
           | (apply stepWith e1; (focus (with_reducible apply (hs.step ∘ ((Grows.refl _).bindLiteralParameters)); done)); clear hs; intro hs)
           | (apply stepWith e1; (focus (with_reducible apply (hs.step ∘ (Grows.generateBlockStatement (fun s _ => stmtOK s) (Grows.refl _))); done)); clear hs; intro hs)
           | (apply stepWith e1; (focus (with_reducible apply (hs.step ∘ ((Grows.refl _).implicitReturn)); done)); clear hs; intro hs)
           | (apply stepWith e1; (focus (with_reducible apply (hs.step ∘ ((Grows.refl _).brIfOpen)); done)); clear hs; intro hs)
           | (apply stepWith e1; (focus (with_reducible apply (h.NewInst); done)); clear h; intro h)
           | (apply stepWith e1; (focus (with_reducible apply (h.NewStore); done)); clear h; intro h)
           | (apply stepWith e1; (focus (with_reducible apply (h.NewTerm); done)); clear h; intro h)
           | (apply stepWith e1; (focus (with_reducible apply (h.NewBlock); done)); clear h; intro h)
           | (apply stepWith e1; (focus (with_reducible apply (h.generateExpression); done)); clear h; intro h)
           | (apply stepWith e1; (focus (with_reducible apply (h.appendPrologue); done)); clear h; intro h)
           | (apply stepWith e1; (focus (with_reducible apply (h.appendEpilogue); done)); clear h; intro h)
           | (apply stepWith e1; (focus (with_reducible apply (h.generateBoundsCheck); done)); clear h; intro h)
           | (apply stepWith e1; (focus (with_reducible apply (Grows.appendElements (fun e _ => exprOK e) h); done)); clear h; intro h)
           | (apply stepWith e1; (focus (with_reducible apply (Grows.callArguments (fun e _ => exprOK e) h); done)); clear h; intro h)
           | (apply stepWith e1; (focus (with_reducible apply (Grows.printfArguments (fun e _ => exprOK e) h); done)); clear h; intro h)
           | (apply stepWith e1; (focus (with_reducible apply (Grows.arrayElements (fun e _ => exprOK e) h); done)); clear h; intro h)
           | (apply stepWith e1; (focus (with_reducible apply (h.bindLiteralParameters); done)); clear h; intro h)
           | (apply stepWith e1; (focus (with_reducible apply (Grows.generateBlockStatement (fun s _ => stmtOK s) h); done)); clear h; intro h)
           | (apply stepWith e1; (focus (with_reducible apply (h.implicitReturn); done)); clear h; intro h)
           | (apply stepWith e1; (focus (with_reducible apply (h.brIfOpen); done)); clear h; intro h)
           | (cases e1)
           | fail)
      | (split at e <;>
         try (rename_i heq
              first
                | (apply stepWith heq; (focus (with_reducible apply (hs.step ∘ ((Grows.refl _).getOrDeclare)); done)); clear hs; intro hs)
                | (apply stepWith heq; (focus (with_reducible apply (hs.step ∘ ((Grows.refl _).resolveCallee)); done)); clear hs; intro hs)
                | (apply stepWith heq; (focus (with_reducible apply (hs.step ∘ ((Grows.refl _).generateStringLiteral)); done)); clear hs; intro hs)
                | (apply stepWith heq; (focus (with_reducible apply (hs.step ∘ ((Grows.refl _).NewInst)); done)); clear hs; intro hs)
                | (apply stepWith heq; (focus (with_reducible apply (hs.step ∘ ((Grows.refl _).NewStore)); done)); clear hs; intro hs)
                | (apply stepWith heq; (focus (with_reducible apply (hs.step ∘ ((Grows.refl _).NewTerm)); done)); clear hs; intro hs)
                | (apply stepWith heq; (focus (with_reducible apply (hs.step ∘ ((Grows.refl _).NewBlock)); done)); clear hs; intro hs)
                | (apply stepWith heq; (focus (with_reducible apply (hs.step ∘ ((Grows.refl _).generateExpression)); done)); clear hs; intro hs)
                | (apply stepWith heq; (focus (with_reducible apply (hs.step ∘ ((Grows.refl _).appendPrologue)); done)); clear hs; intro hs)
                | (apply stepWith heq; (focus (with_reducible apply (hs.step ∘ ((Grows.refl _).appendEpilogue)); done)); clear hs; intro hs)
                | (apply stepWith heq; (focus (with_reducible apply (hs.step ∘ ((Grows.refl _).generateBoundsCheck)); done)); clear hs; intro hs)
                | (apply stepWith heq; (focus (with_reducible apply (hs.step ∘ (Grows.appendElements (fun e _ => exprOK e) (Grows.refl _))); done)); clear hs; intro hs)
                | (apply stepWith heq; (focus (with_reducible apply (hs.step ∘ (Grows.callArguments (fun e _ => exprOK e) (Grows.refl _))); done)); clear hs; intro hs)
                | (apply stepWith heq; (focus (with_reducible apply (hs.step ∘ (Grows.printfArguments (fun e _ => exprOK e) (Grows.refl _))); done)); clear hs; intro hs)
                | (apply stepWith heq; (focus (with_reducible apply (hs.step ∘ (Grows.arrayElements (fun e _ => exprOK e) (Grows.refl _))); done)); clear hs; intro hs)
                | (apply stepWith heq; (focus (with_reducible apply (hs.step ∘ ((Grows.refl _).bindLiteralParameters)); done)); clear hs; intro hs)
                | (apply stepWith heq; (focus (with_reducible apply (hs.step ∘ (Grows.generateBlockStatement (fun s _ => stmtOK s) (Grows.refl _))); done)); clear hs; intro hs)
                | (apply stepWith heq; (focus (with_reducible apply (hs.step ∘ ((Grows.refl _).implicitReturn)); done)); clear hs; intro hs)
                | (apply stepWith heq; (focus (with_reducible apply (hs.step ∘ ((Grows.refl _).brIfOpen)); done)); clear hs; intro hs)
                | (apply stepWith heq; (focus (with_reducible apply (h.getOrDeclare); done)); clear h; intro h)
                | (apply stepWith heq; (focus (with_reducible apply (h.resolveCallee); done)); clear h; intro h)
                | (apply stepWith heq; (focus (with_reducible apply (h.generateStringLiteral); done)); clear h; intro h)
                | (apply stepWith heq; (focus (with_reducible apply (h.NewInst); done)); clear h; intro h)
                | (apply stepWith heq; (focus (with_reducible apply (h.NewStore); done)); clear h; intro h)
                | (apply stepWith heq; (focus (with_reducible apply (h.NewTerm); done)); clear h; intro h)
                | (apply stepWith heq; (focus (with_reducible apply (h.NewBlock); done)); clear h; intro h)
                | (apply stepWith heq; (focus (with_reducible apply (h.generateExpression); done)); clear h; intro h)
                | (apply stepWith heq; (focus (with_reducible apply (h.appendPrologue); done)); clear h; intro h)
                | (apply stepWith heq; (focus (with_reducible apply (h.appendEpilogue); done)); clear h; intro h)
                | (apply stepWith heq; (focus (with_reducible apply (h.generateBoundsCheck); done)); clear h; intro h)
                | (apply stepWith heq; (focus (with_reducible apply (Grows.appendElements (fun e _ => exprOK e) h); done)); clear h; intro h)
                | (apply stepWith heq; (focus (with_reducible apply (Grows.callArguments (fun e _ => exprOK e) h); done)); clear h; intro h)
                | (apply stepWith heq; (focus (with_reducible apply (Grows.printfArguments (fun e _ => exprOK e) h); done)); clear h; intro h)
                | (apply stepWith heq; (focus (with_reducible apply (Grows.arrayElements (fun e _ => exprOK e) h); done)); clear h; intro h)
                | (apply stepWith heq; (focus (with_reducible apply (h.bindLiteralParameters); done)); clear h; intro h)
                | (apply stepWith heq; (focus (with_reducible apply (Grows.generateBlockStatement (fun s _ => stmtOK s) h); done)); clear h; intro h)
                | (apply stepWith heq; (focus (with_reducible apply (h.implicitReturn); done)); clear h; intro h)
                | (apply stepWith heq; (focus (with_reducible apply (h.brIfOpen); done)); clear h; intro h)
                | fail))
      | (cases e; first | done | exact hs.extend | exact h.report _ | fail)
      | (dsimp only at e)
      | fail)

theorem Grows.generateCapCall_nil {l : List Expression} (ih : ∀ a rest, l = a :: rest → NilOK a)
    {a g x g' : IRGenerator} [Ext g x] (h : Grows a g)
    (e : Irgen.generateCapCall l x = .ok (none, g')) : Strict a g' := by
  replace h : Grows a x := h.ext
  rcases l with _ | ⟨a0, _ | ⟨b, rest⟩⟩
  · rw [generateCapCall_nil_eq] at e
    try simp only [IRGenerator.NewAlloca, IRGenerator.NewLoad, IRGenerator.NewBin, IRGenerator.NewICmp, IRGenerator.NewFCmp, IRGenerator.NewGetElementPtr, IRGenerator.funcValue, NewCall_func, IRGenerator.NewCall, IRGenerator.NewZExt, IRGenerator.NewSelect, IRGenerator.NewBr, IRGenerator.NewCondBr, IRGenerator.NewRet, IRGenerator.NewUnreachable, IRGenerator.NewFunc, IRGenerator.NewGlobalDef] at e
    repeat' (first
      | (with_reducible first
          | (revert e; apply (hs.step ∘ ((Grows.refl _).NewInst)); done)
          | (revert e; apply (hs.step ∘ ((Grows.refl _).NewStore)); done)
          | (revert e; apply (hs.step ∘ ((Grows.refl _).NewTerm)); done)
          | (revert e; apply (hs.step ∘ ((Grows.refl _).NewBlock)); done)
          | (revert e; apply (hs.step ∘ ((Grows.refl _).generateExpression)); done)
          | (revert e; apply (hs.step ∘ ((Grows.refl _).appendPrologue)); done)
          | (revert e; apply (hs.step ∘ ((Grows.refl _).appendEpilogue)); done)
          | (revert e; apply (hs.step ∘ ((Grows.refl _).generateBoundsCheck)); done)
          | (revert e; apply (hs.step ∘ (Grows.appendElements (fun e _ => exprOK e) (Grows.refl _))); done)
          | (revert e; apply (hs.step ∘ (Grows.callArguments (fun e _ => exprOK e) (Grows.refl _))); done)
          | (revert e; apply (hs.step ∘ (Grows.printfArguments (fun e _ => exprOK e) (Grows.refl _))); done)
          | (revert e; apply (hs.step ∘ (Grows.arrayElements (fun e _ => exprOK e) (Grows.refl _))); done)
          | (revert e; apply (hs.step ∘ ((Grows.refl _).bindLiteralParameters)); done)
          | (revert e; apply (hs.step ∘ (Grows.generateBlockStatement (fun s _ => stmtOK s) (Grows.refl _))); done)
          | (revert e; apply (hs.step ∘ ((Grows.refl _).implicitReturn)); done)
          | (revert e; apply (hs.step ∘ ((Grows.refl _).brIfOpen)); done)
          | (revert e; apply (hs.step ∘ ((Grows.refl _).asResult)); done)
          | (revert e; apply (hs.step ∘ ((Grows.refl _).failWith)); done)
          | (revert e; apply (hs.step ∘ ((Grows.refl _).generateIdentifier)); done)
          | (revert e; apply (hs.step ∘ ((Grows.refl _).prefixOperator)); done)
          | (revert e; apply (hs.step ∘ ((Grows.refl _).generatePostfixExpression)); done)
          | (revert e; apply (hs.step ∘ ((Grows.refl _).generateStringConcatenation)); done)
          | (revert e; apply (hs.step ∘ ((Grows.refl _).infixOperator)); done)
          | (revert e; apply (hs.step ∘ ((Grows.refl _).indexAccess)); done)
          | (revert e; apply (hs.step ∘ ((Grows.refl _).lenOrCap)); done)
          | (revert e; apply (hs.step ∘ ((Grows.refl _).makeSlice)); done)
          | (revert e; apply (hs.step ∘ ((Grows.refl _).printfNoArguments)); done)
          | (revert e; apply (hs.step ∘ ((Grows.refl _).printfCall)); done)
          | (revert e; apply (hs.step ∘ (Grows.generateLenCall (fun e _ => exprOK e) (Grows.refl _))); done)
          | (revert e; apply (hs.step ∘ (Grows.generateCapCall (fun e _ => exprOK e) (Grows.refl _))); done)
          | (revert e; apply (hs.step ∘ (Grows.generateAppendCall (fun e _ => exprOK e) (Grows.refl _))); done)
          | (revert e; apply (hs.step ∘ (Grows.generateMakeCall (fun e _ => exprOK e) (Grows.refl _))); done)
          | (revert e; apply (hs.step ∘ (Grows.generateExitCall (fun e _ => exprOK e) (Grows.refl _))); done)
          | (revert e; apply (h.asResult_nil); done)
          | (revert e; apply (h.failWith_nil); done)
          | fail)
      | (apply stepWith e; (focus (with_reducible apply (@ite_ok _ _ _ _ _ _); done)); intro e2
         clear e
         rcases e2 with ⟨_, e⟩ | ⟨_, e⟩)
      | (simp only [bind_assoc, pure_bind] at e)
      | (rw [bind_ok] at e
         obtain ⟨⟨x1, g1⟩, e1, e⟩ := e
         try dsimp only at e
         first
           | (apply stepWith e1; (focus (with_reducible apply (hs.step ∘ ((Grows.refl _).NewInst)); done)); clear hs; intro hs)
           | (apply stepWith e1; (focus (with_reducible apply (hs.step ∘ ((Grows.refl _).NewStore)); done)); clear hs; intro hs)
           | (apply stepWith e1; (focus (with_reducible apply (hs.step ∘ ((Grows.refl _).NewTerm)); done)); clear hs; intro hs)
           | (apply stepWith e1; (focus (with_reducible apply (hs.step ∘ ((Grows.refl _).NewBlock)); done)); clear hs; intro hs)
           | (apply stepWith e1; (focus (with_reducible apply (hs.step ∘ ((Grows.refl _).generateExpression)); done)); clear hs; intro hs)
           | (apply stepWith e1; (focus (with_reducible apply (hs.step ∘ ((Grows.refl _).appendPrologue)); done)); clear hs; intro hs)
           | (apply stepWith e1; (focus (with_reducible apply (hs.step ∘ ((Grows.refl _).appendEpilogue)); done)); clear hs; intro hs)
           | (apply stepWith e1; (focus (with_reducible apply (hs.step ∘ ((Grows.refl _).generateBoundsCheck)); done)); clear hs; intro hs)
           | (apply stepWith e1; (focus (with_reducible apply (hs.step ∘ (Grows.appendElements (fun e _ => exprOK e) (Grows.refl _))); done)); clear hs; intro hs)
           | (apply stepWith e1; (focus (with_reducible apply (hs.step ∘ (Grows.callArguments (fun e _ => exprOK e) (Grows.refl _))); done)); clear hs; intro hs)
           | (apply stepWith e1; (focus (with_reducible apply (hs.step ∘ (Grows.printfArguments (fun e _ => exprOK e) (Grows.refl _))); done)); clear hs; intro hs)
           | (apply stepWith e1; (focus (with_reducible apply (hs.step ∘ (Grows.arrayElements (fun e _ => exprOK e) (Grows.refl _))); done)); clear hs; intro hs)
           | (apply stepWith e1; (focus (with_reducible apply (hs.step ∘ ((Grows.refl _).bindLiteralParameters)); done)); clear hs; intro hs)
           | (apply stepWith e1; (focus (with_reducible apply (hs.step ∘ (Grows.generateBlockStatement (fun s _ => stmtOK s) (Grows.refl _))); done)); clear hs; intro hs)
           | (apply stepWith e1; (focus (with_reducible apply (hs.step ∘ ((Grows.refl _).implicitReturn)); done)); clear hs; intro hs)
           | (apply stepWith e1; (focus (with_reducible apply (hs.step ∘ ((Grows.refl _).brIfOpen)); done)); clear hs; intro hs)
           | (apply stepWith e1; (focus (with_reducible apply (h.NewInst); done)); clear h; intro h)
           | (apply stepWith e1; (focus (with_reducible apply (h.NewStore); done)); clear h; intro h)
           | (apply stepWith e1; (focus (with_reducible apply (h.NewTerm); done)); clear h; intro h)
           | (apply stepWith e1; (focus (with_reducible apply (h.NewBlock); done)); clear h; intro h)
           | (apply stepWith e1; (focus (with_reducible apply (h.generateExpression); done)); clear h; intro h)
           | (apply stepWith e1; (focus (with_reducible apply (h.appendPrologue); done)); clear h; intro h)
           | (apply stepWith e1; (focus (with_reducible apply (h.appendEpilogue); done)); clear h; intro h)
           | (apply stepWith e1; (focus (with_reducible apply (h.generateBoundsCheck); done)); clear h; intro h)
           | (apply stepWith e1; (focus (with_reducible apply (Grows.appendElements (fun e _ => exprOK e) h); done)); clear h; intro h)
           | (apply stepWith e1; (focus (with_reducible apply (Grows.callArguments (fun e _ => exprOK e) h); done)); clear h; intro h)
           | (apply stepWith e1; (focus (with_reducible apply (Grows.printfArguments (fun e _ => exprOK e) h); done)); clear h; intro h)
           | (apply stepWith e1; (focus (with_reducible apply (Grows.arrayElements (fun e _ => exprOK e) h); done)); clear h; intro h)
           | (apply stepWith e1; (focus (with_reducible apply (h.bindLiteralParameters); done)); clear h; intro h)
           | (apply stepWith e1; (focus (with_reducible apply (Grows.generateBlockStatement (fun s _ => stmtOK s) h); done)); clear h; intro h)
           | (apply stepWith e1; (focus (with_reducible apply (h.implicitReturn); done)); clear h; intro h)
           | (apply stepWith e1; (focus (with_reducible apply (h.brIfOpen); done)); clear h; intro h)
           | (cases e1)
           | fail)
      | (split at e <;>
         try (rename_i heq
              first
                | (apply stepWith heq; (focus (with_reducible apply (hs.step ∘ ((Grows.refl _).getOrDeclare)); done)); clear hs; intro hs)
                | (apply stepWith heq; (focus (with_reducible apply (hs.step ∘ ((Grows.refl _).resolveCallee)); done)); clear hs; intro hs)
                | (apply stepWith heq; (focus (with_reducible apply (hs.step ∘ ((Grows.refl _).generateStringLiteral)); done)); clear hs; intro hs)
                | (apply stepWith heq; (focus (with_reducible apply (hs.step ∘ ((Grows.refl _).NewInst)); done)); clear hs; intro hs)
                | (apply stepWith heq; (focus (with_reducible apply (hs.step ∘ ((Grows.refl _).NewStore)); done)); clear hs; intro hs)
                | (apply stepWith heq; (focus (with_reducible apply (hs.step ∘ ((Grows.refl _).NewTerm)); done)); clear hs; intro hs)
                | (apply stepWith heq; (focus (with_reducible apply (hs.step ∘ ((Grows.refl _).NewBlock)); done)); clear hs; intro hs)
                | (apply stepWith heq; (focus (with_reducible apply (hs.step ∘ ((Grows.refl _).generateExpression)); done)); clear hs; intro hs)
                | (apply stepWith heq; (focus (with_reducible apply (hs.step ∘ ((Grows.refl _).appendPrologue)); done)); clear hs; intro hs)
                | (apply stepWith heq; (focus (with_reducible apply (hs.step ∘ ((Grows.refl _).appendEpilogue)); done)); clear hs; intro hs)
                | (apply stepWith heq; (focus (with_reducible apply (hs.step ∘ ((Grows.refl _).generateBoundsCheck)); done)); clear hs; intro hs)
                | (apply stepWith heq; (focus (with_reducible apply (hs.step ∘ (Grows.appendElements (fun e _ => exprOK e) (Grows.refl _))); done)); clear hs; intro hs)
                | (apply stepWith heq; (focus (with_reducible apply (hs.step ∘ (Grows.callArguments (fun e _ => exprOK e) (Grows.refl _))); done)); clear hs; intro hs)
                | (apply stepWith heq; (focus (with_reducible apply (hs.step ∘ (Grows.printfArguments (fun e _ => exprOK e) (Grows.refl _))); done)); clear hs; intro hs)
                | (apply stepWith heq; (focus (with_reducible apply (hs.step ∘ (Grows.arrayElements (fun e _ => exprOK e) (Grows.refl _))); done)); clear hs; intro hs)
                | (apply stepWith heq; (focus (with_reducible apply (hs.step ∘ ((Grows.refl _).bindLiteralParameters)); done)); clear hs; intro hs)
                | (apply stepWith heq; (focus (with_reducible apply (hs.step ∘ (Grows.generateBlockStatement (fun s _ => stmtOK s) (Grows.refl _))); done)); clear hs; intro hs)
                | (apply stepWith heq; (focus (with_reducible apply (hs.step ∘ ((Grows.refl _).implicitReturn)); done)); clear hs; intro hs)
                | (apply stepWith heq; (focus (with_reducible apply (hs.step ∘ ((Grows.refl _).brIfOpen)); done)); clear hs; intro hs)
                | (apply stepWith heq; (focus (with_reducible apply (h.getOrDeclare); done)); clear h; intro h)
                | (apply stepWith heq; (focus (with_reducible apply (h.resolveCallee); done)); clear h; intro h)
                | (apply stepWith heq; (focus (with_reducible apply (h.generateStringLiteral); done)); clear h; intro h)
                | (apply stepWith heq; (focus (with_reducible apply (h.NewInst); done)); clear h; intro h)
                | (apply stepWith heq; (focus (with_reducible apply (h.NewStore); done)); clear h; intro h)
                | (apply stepWith heq; (focus (with_reducible apply (h.NewTerm); done)); clear h; intro h)
                | (apply stepWith heq; (focus (with_reducible apply (h.NewBlock); done)); clear h; intro h)
                | (apply stepWith heq; (focus (with_reducible apply (h.generateExpression); done)); clear h; intro h)
                | (apply stepWith heq; (focus (with_reducible apply (h.appendPrologue); done)); clear h; intro h)
                | (apply stepWith heq; (focus (with_reducible apply (h.appendEpilogue); done)); clear h; intro h)
                | (apply stepWith heq; (focus (with_reducible apply (h.generateBoundsCheck); done)); clear h; intro h)
                | (apply stepWith heq; (focus (with_reducible apply (Grows.appendElements (fun e _ => exprOK e) h); done)); clear h; intro h)
                | (apply stepWith heq; (focus (with_reducible apply (Grows.callArguments (fun e _ => exprOK e) h); done)); clear h; intro h)
                | (apply stepWith heq; (focus (with_reducible apply (Grows.printfArguments (fun e _ => exprOK e) h); done)); clear h; intro h)
                | (apply stepWith heq; (focus (with_reducible apply (Grows.arrayElements (fun e _ => exprOK e) h); done)); clear h; intro h)
                | (apply stepWith heq; (focus (with_reducible apply (h.bindLiteralParameters); done)); clear h; intro h)
                | (apply stepWith heq; (focus (with_reducible apply (Grows.generateBlockStatement (fun s _ => stmtOK s) h); done)); clear h; intro h)
                | (apply stepWith heq; (focus (with_reducible apply (h.implicitReturn); done)); clear h; intro h)
                | (apply stepWith heq; (focus (with_reducible apply (h.brIfOpen); done)); clear h; intro h)
                | fail))
      | (cases e; first | done | exact hs.extend | exact h.report _ | fail)
      | (dsimp only at e)
      | fail)
  · rw [generateCapCall_one_eq] at e
    have ih0 := ih _ _ rfl
    try simp only [IRGenerator.NewAlloca, IRGenerator.NewLoad, IRGenerator.NewBin, IRGenerator.NewICmp, IRGenerator.NewFCmp, IRGenerator.NewGetElementPtr, IRGenerator.funcValue, NewCall_func, IRGenerator.NewCall, IRGenerator.NewZExt, IRGenerator.NewSelect, IRGenerator.NewBr, IRGenerator.NewCondBr, IRGenerator.NewRet, IRGenerator.NewUnreachable, IRGenerator.NewFunc, IRGenerator.NewGlobalDef] at e
    repeat' (first
      | (with_reducible first
          | (revert e; apply (hs.step ∘ ((Grows.refl _).NewInst)); done)
          | (revert e; apply (hs.step ∘ ((Grows.refl _).NewStore)); done)
          | (revert e; apply (hs.step ∘ ((Grows.refl _).NewTerm)); done)
          | (revert e; apply (hs.step ∘ ((Grows.refl _).NewBlock)); done)
          | (revert e; apply (hs.step ∘ ((Grows.refl _).generateExpression)); done)
          | (revert e; apply (hs.step ∘ ((Grows.refl _).appendPrologue)); done)
          | (revert e; apply (hs.step ∘ ((Grows.refl _).appendEpilogue)); done)
          | (revert e; apply (hs.step ∘ ((Grows.refl _).generateBoundsCheck)); done)
          | (revert e; apply (hs.step ∘ (Grows.appendElements (fun e _ => exprOK e) (Grows.refl _))); done)
          | (revert e; apply (hs.step ∘ (Grows.callArguments (fun e _ => exprOK e) (Grows.refl _))); done)
          | (revert e; apply (hs.step ∘ (Grows.printfArguments (fun e _ => exprOK e) (Grows.refl _))); done)
          | (revert e; apply (hs.step ∘ (Grows.arrayElements (fun e _ => exprOK e) (Grows.refl _))); done)
          | (revert e; apply (hs.step ∘ ((Grows.refl _).bindLiteralParameters)); done)
          | (revert e; apply (hs.step ∘ (Grows.generateBlockStatement (fun s _ => stmtOK s) (Grows.refl _))); done)
          | (revert e; apply (hs.step ∘ ((Grows.refl _).implicitReturn)); done)
          | (revert e; apply (hs.step ∘ ((Grows.refl _).brIfOpen)); done)
          | (revert e; apply (hs.step ∘ ((Grows.refl _).asResult)); done)
          | (revert e; apply (hs.step ∘ ((Grows.refl _).failWith)); done)
          | (revert e; apply (hs.step ∘ ((Grows.refl _).generateIdentifier)); done)
          | (revert e; apply (hs.step ∘ ((Grows.refl _).prefixOperator)); done)
          | (revert e; apply (hs.step ∘ ((Grows.refl _).generatePostfixExpression)); done)
          | (revert e; apply (hs.step ∘ ((Grows.refl _).generateStringConcatenation)); done)
          | (revert e; apply (hs.step ∘ ((Grows.refl _).infixOperator)); done)
          | (revert e; apply (hs.step ∘ ((Grows.refl _).indexAccess)); done)
          | (revert e; apply (hs.step ∘ ((Grows.refl _).lenOrCap)); done)
          | (revert e; apply (hs.step ∘ ((Grows.refl _).makeSlice)); done)
          | (revert e; apply (hs.step ∘ ((Grows.refl _).printfNoArguments)); done)
          | (revert e; apply (hs.step ∘ ((Grows.refl _).printfCall)); done)
          | (revert e; apply (hs.step ∘ (Grows.generateLenCall (fun e _ => exprOK e) (Grows.refl _))); done)
          | (revert e; apply (hs.step ∘ (Grows.generateCapCall (fun e _ => exprOK e) (Grows.refl _))); done)
          | (revert e; apply (hs.step ∘ (Grows.generateAppendCall (fun e _ => exprOK e) (Grows.refl _))); done)
          | (revert e; apply (hs.step ∘ (Grows.generateMakeCall (fun e _ => exprOK e) (Grows.refl _))); done)
          | (revert e; apply (hs.step ∘ (Grows.generateExitCall (fun e _ => exprOK e) (Grows.refl _))); done)
          | (revert e; apply (h.asResult_nil); done)
          | (revert e; apply (h.failWith_nil); done)
          | (revert e; apply (h.lenOrCap_nil); done)
          | (revert e; apply (h.strict ∘ (ih0.strict)); done)
          | fail)
      | (apply stepWith e; (focus (with_reducible apply (@ite_ok _ _ _ _ _ _); done)); intro e2
         clear e
         rcases e2 with ⟨_, e⟩ | ⟨_, e⟩)
      | (simp only [bind_assoc, pure_bind] at e)
      | (rw [bind_ok] at e
         obtain ⟨⟨x1, g1⟩, e1, e⟩ := e
         try dsimp only at e
         first
           | (apply stepWith e1; (focus (with_reducible apply (hs.step ∘ ((Grows.refl _).NewInst)); done)); clear hs; intro hs)
           | (apply stepWith e1; (focus (with_reducible apply (hs.step ∘ ((Grows.refl _).NewStore)); done)); clear hs; intro hs)
           | (apply stepWith e1; (focus (with_reducible apply (hs.step ∘ ((Grows.refl _).NewTerm)); done)); clear hs; intro hs)
           | (apply stepWith e1; (focus (with_reducible apply (hs.step ∘ ((Grows.refl _).NewBlock)); done)); clear hs; intro hs)
           | (apply stepWith e1; (focus (with_reducible apply (hs.step ∘ ((Grows.refl _).generateExpression)); done)); clear hs; intro hs)
           | (apply stepWith e1; (focus (with_reducible apply (hs.step ∘ ((Grows.refl _).appendPrologue)); done)); clear hs; intro hs)
           | (apply stepWith e1; (focus (with_reducible apply (hs.step ∘ ((Grows.refl _).appendEpilogue)); done)); clear hs; intro hs)
           | (apply stepWith e1; (focus (with_reducible apply (hs.step ∘ ((Grows.refl _).generateBoundsCheck)); done)); clear hs; intro hs)
           | (apply stepWith e1; (focus (with_reducible apply (hs.step ∘ (Grows.appendElements (fun e _ => exprOK e) (Grows.refl _))); done)); clear hs; intro hs)
           | (apply stepWith e1; (focus (with_reducible apply (hs.step ∘ (Grows.callArguments (fun e _ => exprOK e) (Grows.refl _))); done)); clear hs; intro hs)
           | (apply stepWith e1; (focus (with_reducible apply (hs.step ∘ (Grows.printfArguments (fun e _ => exprOK e) (Grows.refl _))); done)); clear hs; intro hs)
           | (apply stepWith e1; (focus (with_reducible apply (hs.step ∘ (Grows.arrayElements (fun e _ => exprOK e) (Grows.refl _))); done)); clear hs; intro hs)
           | (apply stepWith e1; (focus (with_reducible apply (hs.step ∘ ((Grows.refl _).bindLiteralParameters)); done)); clear hs; intro hs)
           | (apply stepWith e1; (focus (with_reducible apply (hs.step ∘ (Grows.generateBlockStatement (fun s _ => stmtOK s) (Grows.refl _))); done)); clear hs; intro hs)
           | (apply stepWith e1; (focus (with_reducible apply (hs.step ∘ ((Grows.refl _).implicitReturn)); done)); clear hs; intro hs)
           | (apply stepWith e1; (focus (with_reducible apply (hs.step ∘ ((Grows.refl _).brIfOpen)); done)); clear hs; intro hs)
           | (have hg := h.generateExpressionOf a0 e1
              rcases x1 with _ | v1 <;>
                first | (have hs := h.strict (ih0.strict e1)) | (replace h := hg))
           | (apply stepWith e1; (focus (with_reducible apply (h.NewInst); done)); clear h; intro h)
           | (apply stepWith e1; (focus (with_reducible apply (h.NewStore); done)); clear h; intro h)
           | (apply stepWith e1; (focus (with_reducible apply (h.NewTerm); done)); clear h; intro h)
           | (apply stepWith e1; (focus (with_reducible apply (h.NewBlock); done)); clear h; intro h)
           | (apply stepWith e1; (focus (with_reducible apply (h.generateExpression); done)); clear h; intro h)
           | (apply stepWith e1; (focus (with_reducible apply (h.appendPrologue); done)); clear h; intro h)
           | (apply stepWith e1; (focus (with_reducible apply (h.appendEpilogue); done)); clear h; intro h)
           | (apply stepWith e1; (focus (with_reducible apply (h.generateBoundsCheck); done)); clear h; intro h)
           | (apply stepWith e1; (focus (with_reducible apply (Grows.appendElements (fun e _ => exprOK e) h); done)); clear h; intro h)
           | (apply stepWith e1; (focus (with_reducible apply (Grows.callArguments (fun e _ => exprOK e) h); done)); clear h; intro h)
           | (apply stepWith e1; (focus (with_reducible apply (Grows.printfArguments (fun e _ => exprOK e) h); done)); clear h; intro h)
           | (apply stepWith e1; (focus (with_reducible apply (Grows.arrayElements (fun e _ => exprOK e) h); done)); clear h; intro h)
           | (apply stepWith e1; (focus (with_reducible apply (h.bindLiteralParameters); done)); clear h; intro h)
           | (apply stepWith e1; (focus (with_reducible apply (Grows.generateBlockStatement (fun s _ => stmtOK s) h); done)); clear h; intro h)
           | (apply stepWith e1; (focus (with_reducible apply (h.implicitReturn); done)); clear h; intro h)
           | (apply stepWith e1; (focus (with_reducible apply (h.brIfOpen); done)); clear h; intro h)
           | (cases e1)
           | fail)
      | (split at e <;>
         try (rename_i heq
              first
                | (apply stepWith heq; (focus (with_reducible apply (hs.step ∘ ((Grows.refl _).getOrDeclare)); done)); clear hs; intro hs)
                | (apply stepWith heq; (focus (with_reducible apply (hs.step ∘ ((Grows.refl _).resolveCallee)); done)); clear hs; intro hs)
                | (apply stepWith heq; (focus (with_reducible apply (hs.step ∘ ((Grows.refl _).generateStringLiteral)); done)); clear hs; intro hs)
                | (apply stepWith heq; (focus (with_reducible apply (hs.step ∘ ((Grows.refl _).NewInst)); done)); clear hs; intro hs)
                | (apply stepWith heq; (focus (with_reducible apply (hs.step ∘ ((Grows.refl _).NewStore)); done)); clear hs; intro hs)
                | (apply stepWith heq; (focus (with_reducible apply (hs.step ∘ ((Grows.refl _).NewTerm)); done)); clear hs; intro hs)
                | (apply stepWith heq; (focus (with_reducible apply (hs.step ∘ ((Grows.refl _).NewBlock)); done)); clear hs; intro hs)
                | (apply stepWith heq; (focus (with_reducible apply (hs.step ∘ ((Grows.refl _).generateExpression)); done)); clear hs; intro hs)
                | (apply stepWith heq; (focus (with_reducible apply (hs.step ∘ ((Grows.refl _).appendPrologue)); done)); clear hs; intro hs)
                | (apply stepWith heq; (focus (with_reducible apply (hs.step ∘ ((Grows.refl _).appendEpilogue)); done)); clear hs; intro hs)
                | (apply stepWith heq; (focus (with_reducible apply (hs.step ∘ ((Grows.refl _).generateBoundsCheck)); done)); clear hs; intro hs)
                | (apply stepWith heq; (focus (with_reducible apply (hs.step ∘ (Grows.appendElements (fun e _ => exprOK e) (Grows.refl _))); done)); clear hs; intro hs)
                | (apply stepWith heq; (focus (with_reducible apply (hs.step ∘ (Grows.callArguments (fun e _ => exprOK e) (Grows.refl _))); done)); clear hs; intro hs)
                | (apply stepWith heq; (focus (with_reducible apply (hs.step ∘ (Grows.printfArguments (fun e _ => exprOK e) (Grows.refl _))); done)); clear hs; intro hs)
                | (apply stepWith heq; (focus (with_reducible apply (hs.step ∘ (Grows.arrayElements (fun e _ => exprOK e) (Grows.refl _))); done)); clear hs; intro hs)
                | (apply stepWith heq; (focus (with_reducible apply (hs.step ∘ ((Grows.refl _).bindLiteralParameters)); done)); clear hs; intro hs)
                | (apply stepWith heq; (focus (with_reducible apply (hs.step ∘ (Grows.generateBlockStatement (fun s _ => stmtOK s) (Grows.refl _))); done)); clear hs; intro hs)
                | (apply stepWith heq; (focus (with_reducible apply (hs.step ∘ ((Grows.refl _).implicitReturn)); done)); clear hs; intro hs)
                | (apply stepWith heq; (focus (with_reducible apply (hs.step ∘ ((Grows.refl _).brIfOpen)); done)); clear hs; intro hs)
                | (apply stepWith heq; (focus (with_reducible apply (h.getOrDeclare); done)); clear h; intro h)
                | (apply stepWith heq; (focus (with_reducible apply (h.resolveCallee); done)); clear h; intro h)
                | (apply stepWith heq; (focus (with_reducible apply (h.generateStringLiteral); done)); clear h; intro h)
                | (apply stepWith heq; (focus (with_reducible apply (h.NewInst); done)); clear h; intro h)
                | (apply stepWith heq; (focus (with_reducible apply (h.NewStore); done)); clear h; intro h)
                | (apply stepWith heq; (focus (with_reducible apply (h.NewTerm); done)); clear h; intro h)
                | (apply stepWith heq; (focus (with_reducible apply (h.NewBlock); done)); clear h; intro h)
                | (apply stepWith heq; (focus (with_reducible apply (h.generateExpression); done)); clear h; intro h)
                | (apply stepWith heq; (focus (with_reducible apply (h.appendPrologue); done)); clear h; intro h)
                | (apply stepWith heq; (focus (with_reducible apply (h.appendEpilogue); done)); clear h; intro h)
                | (apply stepWith heq; (focus (with_reducible apply (h.generateBoundsCheck); done)); clear h; intro h)
                | (apply stepWith heq; (focus (with_reducible apply (Grows.appendElements (fun e _ => exprOK e) h); done)); clear h; intro h)
                | (apply stepWith heq; (focus (with_reducible apply (Grows.callArguments (fun e _ => exprOK e) h); done)); clear h; intro h)
                | (apply stepWith heq; (focus (with_reducible apply (Grows.printfArguments (fun e _ => exprOK e) h); done)); clear h; intro h)
                | (apply stepWith heq; (focus (with_reducible apply (Grows.arrayElements (fun e _ => exprOK e) h); done)); clear h; intro h)
                | (apply stepWith heq; (focus (with_reducible apply (h.bindLiteralParameters); done)); clear h; intro h)
                | (apply stepWith heq; (focus (with_reducible apply (Grows.generateBlockStatement (fun s _ => stmtOK s) h); done)); clear h; intro h)
                | (apply stepWith heq; (focus (with_reducible apply (h.implicitReturn); done)); clear h; intro h)
                | (apply stepWith heq; (focus (with_reducible apply (h.brIfOpen); done)); clear h; intro h)
                | fail))
      | (cases e; first | done | exact hs.extend | exact h.report _ | fail)
      | (dsimp only at e)
      | fail)
  · rw [generateCapCall_more_eq] at e
    try simp only [IRGenerator.NewAlloca, IRGenerator.NewLoad, IRGenerator.NewBin, IRGenerator.NewICmp, IRGenerator.NewFCmp, IRGenerator.NewGetElementPtr, IRGenerator.funcValue, NewCall_func, IRGenerator.NewCall, IRGenerator.NewZExt, IRGenerator.NewSelect, IRGenerator.NewBr, IRGenerator.NewCondBr, IRGenerator.NewRet, IRGenerator.NewUnreachable, IRGenerator.NewFunc, IRGenerator.NewGlobalDef] at e
    repeat' (first
      | (with_reducible first
          | (revert e; apply (hs.step ∘ ((Grows.refl _).NewInst)); done)
          | (revert e; apply (hs.step ∘ ((Grows.refl _).NewStore)); done)
          | (revert e; apply (hs.step ∘ ((Grows.refl _).NewTerm)); done)
          | (revert e; apply (hs.step ∘ ((Grows.refl _).NewBlock)); done)
          | (revert e; apply (hs.step ∘ ((Grows.refl _).generateExpression)); done)
          | (revert e; apply (hs.step ∘ ((Grows.refl _).appendPrologue)); done)
          | (revert e; apply (hs.step ∘ ((Grows.refl _).appendEpilogue)); done)
          | (revert e; apply (hs.step ∘ ((Grows.refl _).generateBoundsCheck)); done)
          | (revert e; apply (hs.step ∘ (Grows.appendElements (fun e _ => exprOK e) (Grows.refl _))); done)
          | (revert e; apply (hs.step ∘ (Grows.callArguments (fun e _ => exprOK e) (Grows.refl _))); done)
          | (revert e; apply (hs.step ∘ (Grows.printfArguments (fun e _ => exprOK e) (Grows.refl _))); done)
          | (revert e; apply (hs.step ∘ (Grows.arrayElements (fun e _ => exprOK e) (Grows.refl _))); done)
          | (revert e; apply (hs.step ∘ ((Grows.refl _).bindLiteralParameters)); done)
          | (revert e; apply (hs.step ∘ (Grows.generateBlockStatement (fun s _ => stmtOK s) (Grows.refl _))); done)
          | (revert e; apply (hs.step ∘ ((Grows.refl _).implicitReturn)); done)
          | (revert e; apply (hs.step ∘ ((Grows.refl _).brIfOpen)); done)
          | (revert e; apply (hs.step ∘ ((Grows.refl _).asResult)); done)
          | (revert e; apply (hs.step ∘ ((Grows.refl _).failWith)); done)
          | (revert e; apply (hs.step ∘ ((Grows.refl _).generateIdentifier)); done)
          | (revert e; apply (hs.step ∘ ((Grows.refl _).prefixOperator)); done)
          | (revert e; apply (hs.step ∘ ((Grows.refl _).generatePostfixExpression)); done)
          | (revert e; apply (hs.step ∘ ((Grows.refl _).generateStringConcatenation)); done)
          | (revert e; apply (hs.step ∘ ((Grows.refl _).infixOperator)); done)
          | (revert e; apply (hs.step ∘ ((Grows.refl _).indexAccess)); done)
          | (revert e; apply (hs.step ∘ ((Grows.refl _).lenOrCap)); done)
          | (revert e; apply (hs.step ∘ ((Grows.refl _).makeSlice)); done)
          | (revert e; apply (hs.step ∘ ((Grows.refl _).printfNoArguments)); done)
          | (revert e; apply (hs.step ∘ ((Grows.refl _).printfCall)); done)
          | (revert e; apply (hs.step ∘ (Grows.generateLenCall (fun e _ => exprOK e) (Grows.refl _))); done)
          | (revert e; apply (hs.step ∘ (Grows.generateCapCall (fun e _ => exprOK e) (Grows.refl _))); done)
          | (revert e; apply (hs.step ∘ (Grows.generateAppendCall (fun e _ => exprOK e) (Grows.refl _))); done)
          | (revert e; apply (hs.step ∘ (Grows.generateMakeCall (fun e _ => exprOK e) (Grows.refl _))); done)
          | (revert e; apply (hs.step ∘ (Grows.generateExitCall (fun e _ => exprOK e) (Grows.refl _))); done)
          | (revert e; apply (h.asResult_nil); done)
          | (revert e; apply (h.failWith_nil); done)
          | fail)
      | (apply stepWith e; (focus (with_reducible apply (@ite_ok _ _ _ _ _ _); done)); intro e2
         clear e
         rcases e2 with ⟨_, e⟩ | ⟨_, e⟩)
      | (simp only [bind_assoc, pure_bind] at e)
      | (rw [bind_ok] at e
         obtain ⟨⟨x1, g1⟩, e1, e⟩ := e
         try dsimp only at e
         first
           | (apply stepWith e1; (focus (with_reducible apply (hs.step ∘ ((Grows.refl _).NewInst)); done)); clear hs; intro hs)
           | (apply stepWith e1; (focus (with_reducible apply (hs.step ∘ ((Grows.refl _).NewStore)); done)); clear hs; intro hs)
           | (apply stepWith e1; (focus (with_reducible apply (hs.step ∘ ((Grows.refl _).NewTerm)); done)); clear hs; intro hs)
           | (apply stepWith e1; (focus (with_reducible apply (hs.step ∘ ((Grows.refl _).NewBlock)); done)); clear hs; intro hs)
           | (apply stepWith e1; (focus (with_reducible apply (hs.step ∘ ((Grows.refl _).generateExpression)); done)); clear hs; intro hs)
           | (apply stepWith e1; (focus (with_reducible apply (hs.step ∘ ((Grows.refl _).appendPrologue)); done)); clear hs; intro hs)
           | (apply stepWith e1; (focus (with_reducible apply (hs.step ∘ ((Grows.refl _).appendEpilogue)); done)); clear hs; intro hs)
           | (apply stepWith e1; (focus (with_reducible apply (hs.step ∘ ((Grows.refl _).generateBoundsCheck)); done)); clear hs; intro hs)
           | (apply stepWith e1; (focus (with_reducible apply (hs.step ∘ (Grows.appendElements (fun e _ => exprOK e) (Grows.refl _))); done)); clear hs; intro hs)
           | (apply stepWith e1; (focus (with_reducible apply (hs.step ∘ (Grows.callArguments (fun e _ => exprOK e) (Grows.refl _))); done)); clear hs; intro hs)
           | (apply stepWith e1; (focus (with_reducible apply (hs.step ∘ (Grows.printfArguments (fun e _ => exprOK e) (Grows.refl _))); done)); clear hs; intro hs)
           | (apply stepWith e1; (focus (with_reducible apply (hs.step ∘ (Grows.arrayElements (fun e _ => exprOK e) (Grows.refl _))); done)); clear hs; intro hs)
           | (apply stepWith e1; (focus (with_reducible apply (hs.step ∘ ((Grows.refl _).bindLiteralParameters)); done)); clear hs; intro hs)
           | (apply stepWith e1; (focus (with_reducible apply (hs.step ∘ (Grows.generateBlockStatement (fun s _ => stmtOK s) (Grows.refl _))); done)); clear hs; intro hs)
           | (apply stepWith e1; (focus (with_reducible apply (hs.step ∘ ((Grows.refl _).implicitReturn)); done)); clear hs; intro hs)
           | (apply stepWith e1; (focus (with_reducible apply (hs.step ∘ ((Grows.refl _).brIfOpen)); done)); clear hs; intro hs)
           | (apply stepWith e1; (focus (with_reducible apply (h.NewInst); done)); clear h; intro h)
           | (apply stepWith e1; (focus (with_reducible apply (h.NewStore); done)); clear h; intro h)
           | (apply stepWith e1; (focus (with_reducible apply (h.NewTerm); done)); clear h; intro h)
           | (apply stepWith e1; (focus (with_reducible apply (h.NewBlock); done)); clear h; intro h)
           | (apply stepWith e1; (focus (with_reducible apply (h.generateExpression); done)); clear h; intro h)
           | (apply stepWith e1; (focus (with_reducible apply (h.appendPrologue); done)); clear h; intro h)
           | (apply stepWith e1; (focus (with_reducible apply (h.appendEpilogue); done)); clear h; intro h)
           | (apply stepWith e1; (focus (with_reducible apply (h.generateBoundsCheck); done)); clear h; intro h)
           | (apply stepWith e1; (focus (with_reducible apply (Grows.appendElements (fun e _ => exprOK e) h); done)); clear h; intro h)
           | (apply stepWith e1; (focus (with_reducible apply (Grows.callArguments (fun e _ => exprOK e) h); done)); clear h; intro h)
           | (apply stepWith e1; (focus (with_reducible apply (Grows.printfArguments (fun e _ => exprOK e) h); done)); clear h; intro h)
           | (apply stepWith e1; (focus (with_reducible apply (Grows.arrayElements (fun e _ => exprOK e) h); done)); clear h; intro h)
           | (apply stepWith e1; (focus (with_reducible apply (h.bindLiteralParameters); done)); clear h; intro h)
           | (apply stepWith e1; (focus (with_reducible apply (Grows.generateBlockStatement (fun s _ => stmtOK s) h); done)); clear h; intro h)
           | (apply stepWith e1; (focus (with_reducible apply (h.implicitReturn); done)); clear h; intro h)
           | (apply stepWith e1; (focus (with_reducible apply (h.brIfOpen); done)); clear h; intro h)
           | (cases e1)
           | fail)
      | (split at e <;>
         try (rename_i heq
              first
                | (apply stepWith heq; (focus (with_reducible apply (hs.step ∘ ((Grows.refl _).getOrDeclare)); done)); clear hs; intro hs)
                | (apply stepWith heq; (focus (with_reducible apply (hs.step ∘ ((Grows.refl _).resolveCallee)); done)); clear hs; intro hs)
                | (apply stepWith heq; (focus (with_reducible apply (hs.step ∘ ((Grows.refl _).generateStringLiteral)); done)); clear hs; intro hs)
                | (apply stepWith heq; (focus (with_reducible apply (hs.step ∘ ((Grows.refl _).NewInst)); done)); clear hs; intro hs)
                | (apply stepWith heq; (focus (with_reducible apply (hs.step ∘ ((Grows.refl _).NewStore)); done)); clear hs; intro hs)
                | (apply stepWith heq; (focus (with_reducible apply (hs.step ∘ ((Grows.refl _).NewTerm)); done)); clear hs; intro hs)
                | (apply stepWith heq; (focus (with_reducible apply (hs.step ∘ ((Grows.refl _).NewBlock)); done)); clear hs; intro hs)
                | (apply stepWith heq; (focus (with_reducible apply (hs.step ∘ ((Grows.refl _).generateExpression)); done)); clear hs; intro hs)
                | (apply stepWith heq; (focus (with_reducible apply (hs.step ∘ ((Grows.refl _).appendPrologue)); done)); clear hs; intro hs)
                | (apply stepWith heq; (focus (with_reducible apply (hs.step ∘ ((Grows.refl _).appendEpilogue)); done)); clear hs; intro hs)
                | (apply stepWith heq; (focus (with_reducible apply (hs.step ∘ ((Grows.refl _).generateBoundsCheck)); done)); clear hs; intro hs)
                | (apply stepWith heq; (focus (with_reducible apply (hs.step ∘ (Grows.appendElements (fun e _ => exprOK e) (Grows.refl _))); done)); clear hs; intro hs)
                | (apply stepWith heq; (focus (with_reducible apply (hs.step ∘ (Grows.callArguments (fun e _ => exprOK e) (Grows.refl _))); done)); clear hs; intro hs)
                | (apply stepWith heq; (focus (with_reducible apply (hs.step ∘ (Grows.printfArguments (fun e _ => exprOK e) (Grows.refl _))); done)); clear hs; intro hs)
                | (apply stepWith heq; (focus (with_reducible apply (hs.step ∘ (Grows.arrayElements (fun e _ => exprOK e) (Grows.refl _))); done)); clear hs; intro hs)
                | (apply stepWith heq; (focus (with_reducible apply (hs.step ∘ ((Grows.refl _).bindLiteralParameters)); done)); clear hs; intro hs)
                | (apply stepWith heq; (focus (with_reducible apply (hs.step ∘ (Grows.generateBlockStatement (fun s _ => stmtOK s) (Grows.refl _))); done)); clear hs; intro hs)
                | (apply stepWith heq; (focus (with_reducible apply (hs.step ∘ ((Grows.refl _).implicitReturn)); done)); clear hs; intro hs)
                | (apply stepWith heq; (focus (with_reducible apply (hs.step ∘ ((Grows.refl _).brIfOpen)); done)); clear hs; intro hs)
                | (apply stepWith heq; (focus (with_reducible apply (h.getOrDeclare); done)); clear h; intro h)
                | (apply stepWith heq; (focus (with_reducible apply (h.resolveCallee); done)); clear h; intro h)
                | (apply stepWith heq; (focus (with_reducible apply (h.generateStringLiteral); done)); clear h; intro h)
                | (apply stepWith heq; (focus (with_reducible apply (h.NewInst); done)); clear h; intro h)
                | (apply stepWith heq; (focus (with_reducible apply (h.NewStore); done)); clear h; intro h)
                | (apply stepWith heq; (focus (with_reducible apply (h.NewTerm); done)); clear h; intro h)
                | (apply stepWith heq; (focus (with_reducible apply (h.NewBlock); done)); clear h; intro h)
                | (apply stepWith heq; (focus (with_reducible apply (h.generateExpression); done)); clear h; intro h)
                | (apply stepWith heq; (focus (with_reducible apply (h.appendPrologue); done)); clear h; intro h)
                | (apply stepWith heq; (focus (with_reducible apply (h.appendEpilogue); done)); clear h; intro h)
                | (apply stepWith heq; (focus (with_reducible apply (h.generateBoundsCheck); done)); clear h; intro h)
                | (apply stepWith heq; (focus (with_reducible apply (Grows.appendElements (fun e _ => exprOK e) h); done)); clear h; intro h)
                | (apply stepWith heq; (focus (with_reducible apply (Grows.callArguments (fun e _ => exprOK e) h); done)); clear h; intro h)
                | (apply stepWith heq; (focus (with_reducible apply (Grows.printfArguments (fun e _ => exprOK e) h); done)); clear h; intro h)
                | (apply stepWith heq; (focus (with_reducible apply (Grows.arrayElements (fun e _ => exprOK e) h); done)); clear h; intro h)
                | (apply stepWith heq; (focus (with_reducible apply (h.bindLiteralParameters); done)); clear h; intro h)
                | (apply stepWith heq; (focus (with_reducible apply (Grows.generateBlockStatement (fun s _ => stmtOK s) h); done)); clear h; intro h)
                | (apply stepWith heq; (focus (with_reducible apply (h.implicitReturn); done)); clear h; intro h)
                | (apply stepWith heq; (focus (with_reducible apply (h.brIfOpen); done)); clear h; intro h)
                | fail))
      | (cases e; first | done | exact hs.extend | exact h.report _ | fail)
      | (dsimp only at e)
      | fail)

theorem Grows.generateAppendCall_nil {l : List Expression} (ih : ∀ a rest, l = a :: rest → NilOK a)
    {a g x g' : IRGenerator} [Ext g x] (h : Grows a g)
    (e : Irgen.generateAppendCall l x = .ok (none, g')) : Strict a g' := by
  replace h : Grows a x := h.ext
  rcases l with _ | ⟨a0, _ | ⟨b, rest⟩⟩
  · rw [generateAppendCall_nil_eq] at e
    try simp only [IRGenerator.NewAlloca, IRGenerator.NewLoad, IRGenerator.NewBin, IRGenerator.NewICmp, IRGenerator.NewFCmp, IRGenerator.NewGetElementPtr, IRGenerator.funcValue, NewCall_func, IRGenerator.NewCall, IRGenerator.NewZExt, IRGenerator.NewSelect, IRGenerator.NewBr, IRGenerator.NewCondBr, IRGenerator.NewRet, IRGenerator.NewUnreachable, IRGenerator.NewFunc, IRGenerator.NewGlobalDef] at e
    repeat' (first
      | (with_reducible first
          | (revert e; apply (hs.step ∘ ((Grows.refl _).NewInst)); done)
          | (revert e; apply (hs.step ∘ ((Grows.refl _).NewStore)); done)
          | (revert e; apply (hs.step ∘ ((Grows.refl _).NewTerm)); done)
          | (revert e; apply (hs.step ∘ ((Grows.refl _).NewBlock)); done)
          | (revert e; apply (hs.step ∘ ((Grows.refl _).generateExpression)); done)
          | (revert e; apply (hs.step ∘ ((Grows.refl _).appendPrologue)); done)
          | (revert e; apply (hs.step ∘ ((Grows.refl _).appendEpilogue)); done)
          | (revert e; apply (hs.step ∘ ((Grows.refl _).generateBoundsCheck)); done)
          | (revert e; apply (hs.step ∘ (Grows.appendElements (fun e _ => exprOK e) (Grows.refl _))); done)
          | (revert e; apply (hs.step ∘ (Grows.callArguments (fun e _ => exprOK e) (Grows.refl _))); done)
          | (revert e; apply (hs.step ∘ (Grows.printfArguments (fun e _ => exprOK e) (Grows.refl _))); done)
          | (revert e; apply (hs.step ∘ (Grows.arrayElements (fun e _ => exprOK e) (Grows.refl _))); done)
          | (revert e; apply (hs.step ∘ ((Grows.refl _).bindLiteralParameters)); done)
          | (revert e; apply (hs.step ∘ (Grows.generateBlockStatement (fun s _ => stmtOK s) (Grows.refl _))); done)
          | (revert e; apply (hs.step ∘ ((Grows.refl _).implicitReturn)); done)
          | (revert e; apply (hs.step ∘ ((Grows.refl _).brIfOpen)); done)
          | (revert e; apply (hs.step ∘ ((Grows.refl _).asResult)); done)
          | (revert e; apply (hs.step ∘ ((Grows.refl _).failWith)); done)
          | (revert e; apply (hs.step ∘ ((Grows.refl _).generateIdentifier)); done)
          | (revert e; apply (hs.step ∘ ((Grows.refl _).prefixOperator)); done)
          | (revert e; apply (hs.step ∘ ((Grows.refl _).generatePostfixExpression)); done)
          | (revert e; apply (hs.step ∘ ((Grows.refl _).generateStringConcatenation)); done)
          | (revert e; apply (hs.step ∘ ((Grows.refl _).infixOperator)); done)
          | (revert e; apply (hs.step ∘ ((Grows.refl _).indexAccess)); done)
          | (revert e; apply (hs.step ∘ ((Grows.refl _).lenOrCap)); done)
          | (revert e; apply (hs.step ∘ ((Grows.refl _).makeSlice)); done)
          | (revert e; apply (hs.step ∘ ((Grows.refl _).printfNoArguments)); done)
          | (revert e; apply (hs.step ∘ ((Grows.refl _).printfCall)); done)
          | (revert e; apply (hs.step ∘ (Grows.generateLenCall (fun e _ => exprOK e) (Grows.refl _))); done)
          | (revert e; apply (hs.step ∘ (Grows.generateCapCall (fun e _ => exprOK e) (Grows.refl _))); done)
          | (revert e; apply (hs.step ∘ (Grows.generateAppendCall (fun e _ => exprOK e) (Grows.refl _))); done)
          | (revert e; apply (hs.step ∘ (Grows.generateMakeCall (fun e _ => exprOK e) (Grows.refl _))); done)
          | (revert e; apply (hs.step ∘ (Grows.generateExitCall (fun e _ => exprOK e) (Grows.refl _))); done)
          | (revert e; apply (h.asResult_nil); done)
          | (revert e; apply (h.failWith_nil); done)
          | fail)
      | (apply stepWith e; (focus (with_reducible apply (@ite_ok _ _ _ _ _ _); done)); intro e2
         clear e
         rcases e2 with ⟨_, e⟩ | ⟨_, e⟩)
      | (simp only [bind_assoc, pure_bind] at e)
      | (rw [bind_ok] at e
         obtain ⟨⟨x1, g1⟩, e1, e⟩ := e
         try dsimp only at e
         first
           | (apply stepWith e1; (focus (with_reducible apply (hs.step ∘ ((Grows.refl _).NewInst)); done)); clear hs; intro hs)
           | (apply stepWith e1; (focus (with_reducible apply (hs.step ∘ ((Grows.refl _).NewStore)); done)); clear hs; intro hs)
           | (apply stepWith e1; (focus (with_reducible apply (hs.step ∘ ((Grows.refl _).NewTerm)); done)); clear hs; intro hs)
           | (apply stepWith e1; (focus (with_reducible apply (hs.step ∘ ((Grows.refl _).NewBlock)); done)); clear hs; intro hs)
           | (apply stepWith e1; (focus (with_reducible apply (hs.step ∘ ((Grows.refl _).generateExpression)); done)); clear hs; intro hs)
           | (apply stepWith e1; (focus (with_reducible apply (hs.step ∘ ((Grows.refl _).appendPrologue)); done)); clear hs; intro hs)
           | (apply stepWith e1; (focus (with_reducible apply (hs.step ∘ ((Grows.refl _).appendEpilogue)); done)); clear hs; intro hs)
           | (apply stepWith e1; (focus (with_reducible apply (hs.step ∘ ((Grows.refl _).generateBoundsCheck)); done)); clear hs; intro hs)
           | (apply stepWith e1; (focus (with_reducible apply (hs.step ∘ (Grows.appendElements (fun e _ => exprOK e) (Grows.refl _))); done)); clear hs; intro hs)
           | (apply stepWith e1; (focus (with_reducible apply (hs.step ∘ (Grows.callArguments (fun e _ => exprOK e) (Grows.refl _))); done)); clear hs; intro hs)
           | (apply stepWith e1; (focus (with_reducible apply (hs.step ∘ (Grows.printfArguments (fun e _ => exprOK e) (Grows.refl _))); done)); clear hs; intro hs)
           | (apply stepWith e1; (focus (with_reducible apply (hs.step ∘ (Grows.arrayElements (fun e _ => exprOK e) (Grows.refl _))); done)); clear hs; intro hs)
           | (apply stepWith e1; (focus (with_reducible apply (hs.step ∘ ((Grows.refl _).bindLiteralParameters)); done)); clear hs; intro hs)
           | (apply stepWith e1; (focus (with_reducible apply (hs.step ∘ (Grows.generateBlockStatement (fun s _ => stmtOK s) (Grows.refl _))); done)); clear hs; intro hs)
           | (apply stepWith e1; (focus (with_reducible apply (hs.step ∘ ((Grows.refl _).implicitReturn)); done)); clear hs; intro hs)
           | (apply stepWith e1; (focus (with_reducible apply (hs.step ∘ ((Grows.refl _).brIfOpen)); done)); clear hs; intro hs)
           | (apply stepWith e1; (focus (with_reducible apply (h.NewInst); done)); clear h; intro h)
           | (apply stepWith e1; (focus (with_reducible apply (h.NewStore); done)); clear h; intro h)
           | (apply stepWith e1; (focus (with_reducible apply (h.NewTerm); done)); clear h; intro h)
           | (apply stepWith e1; (focus (with_reducible apply (h.NewBlock); done)); clear h; intro h)
           | (apply stepWith e1; (focus (with_reducible apply (h.generateExpression); done)); clear h; intro h)
           | (apply stepWith e1; (focus (with_reducible apply (h.appendPrologue); done)); clear h; intro h)
           | (apply stepWith e1; (focus (with_reducible apply (h.appendEpilogue); done)); clear h; intro h)
           | (apply stepWith e1; (focus (with_reducible apply (h.generateBoundsCheck); done)); clear h; intro h)
           | (apply stepWith e1; (focus (with_reducible apply (Grows.appendElements (fun e _ => exprOK e) h); done)); clear h; intro h)
           | (apply stepWith e1; (focus (with_reducible apply (Grows.callArguments (fun e _ => exprOK e) h); done)); clear h; intro h)
           | (apply stepWith e1; (focus (with_reducible apply (Grows.printfArguments (fun e _ => exprOK e) h); done)); clear h; intro h)
           | (apply stepWith e1; (focus (with_reducible apply (Grows.arrayElements (fun e _ => exprOK e) h); done)); clear h; intro h)
           | (apply stepWith e1; (focus (with_reducible apply (h.bindLiteralParameters); done)); clear h; intro h)
           | (apply stepWith e1; (focus (with_reducible apply (Grows.generateBlockStatement (fun s _ => stmtOK s) h); done)); clear h; intro h)
           | (apply stepWith e1; (focus (with_reducible apply (h.implicitReturn); done)); clear h; intro h)
           | (apply stepWith e1; (focus (with_reducible apply (h.brIfOpen); done)); clear h; intro h)
           | (cases e1)
           | fail)
      | (split at e <;>
         try (rename_i heq
              first
                | (apply stepWith heq; (focus (with_reducible apply (hs.step ∘ ((Grows.refl _).getOrDeclare)); done)); clear hs; intro hs)
                | (apply stepWith heq; (focus (with_reducible apply (hs.step ∘ ((Grows.refl _).resolveCallee)); done)); clear hs; intro hs)
                | (apply stepWith heq; (focus (with_reducible apply (hs.step ∘ ((Grows.refl _).generateStringLiteral)); done)); clear hs; intro hs)
                | (apply stepWith heq; (focus (with_reducible apply (hs.step ∘ ((Grows.refl _).NewInst)); done)); clear hs; intro hs)
                | (apply stepWith heq; (focus (with_reducible apply (hs.step ∘ ((Grows.refl _).NewStore)); done)); clear hs; intro hs)
                | (apply stepWith heq; (focus (with_reducible apply (hs.step ∘ ((Grows.refl _).NewTerm)); done)); clear hs; intro hs)
                | (apply stepWith heq; (focus (with_reducible apply (hs.step ∘ ((Grows.refl _).NewBlock)); done)); clear hs; intro hs)
                | (apply stepWith heq; (focus (with_reducible apply (hs.step ∘ ((Grows.refl _).generateExpression)); done)); clear hs; intro hs)
                | (apply stepWith heq; (focus (with_reducible apply (hs.step ∘ ((Grows.refl _).appendPrologue)); done)); clear hs; intro hs)
                | (apply stepWith heq; (focus (with_reducible apply (hs.step ∘ ((Grows.refl _).appendEpilogue)); done)); clear hs; intro hs)
                | (apply stepWith heq; (focus (with_reducible apply (hs.step ∘ ((Grows.refl _).generateBoundsCheck)); done)); clear hs; intro hs)
                | (apply stepWith heq; (focus (with_reducible apply (hs.step ∘ (Grows.appendElements (fun e _ => exprOK e) (Grows.refl _))); done)); clear hs; intro hs)
                | (apply stepWith heq; (focus (with_reducible apply (hs.step ∘ (Grows.callArguments (fun e _ => exprOK e) (Grows.refl _))); done)); clear hs; intro hs)
                | (apply stepWith heq; (focus (with_reducible apply (hs.step ∘ (Grows.printfArguments (fun e _ => exprOK e) (Grows.refl _))); done)); clear hs; intro hs)
                | (apply stepWith heq; (focus (with_reducible apply (hs.step ∘ (Grows.arrayElements (fun e _ => exprOK e) (Grows.refl _))); done)); clear hs; intro hs)
                | (apply stepWith heq; (focus (with_reducible apply (hs.step ∘ ((Grows.refl _).bindLiteralParameters)); done)); clear hs; intro hs)
                | (apply stepWith heq; (focus (with_reducible apply (hs.step ∘ (Grows.generateBlockStatement (fun s _ => stmtOK s) (Grows.refl _))); done)); clear hs; intro hs)
                | (apply stepWith heq; (focus (with_reducible apply (hs.step ∘ ((Grows.refl _).implicitReturn)); done)); clear hs; intro hs)
                | (apply stepWith heq; (focus (with_reducible apply (hs.step ∘ ((Grows.refl _).brIfOpen)); done)); clear hs; intro hs)
                | (apply stepWith heq; (focus (with_reducible apply (h.getOrDeclare); done)); clear h; intro h)
                | (apply stepWith heq; (focus (with_reducible apply (h.resolveCallee); done)); clear h; intro h)
                | (apply stepWith heq; (focus (with_reducible apply (h.generateStringLiteral); done)); clear h; intro h)
                | (apply stepWith heq; (focus (with_reducible apply (h.NewInst); done)); clear h; intro h)
                | (apply stepWith heq; (focus (with_reducible apply (h.NewStore); done)); clear h; intro h)
                | (apply stepWith heq; (focus (with_reducible apply (h.NewTerm); done)); clear h; intro h)
                | (apply stepWith heq; (focus (with_reducible apply (h.NewBlock); done)); clear h; intro h)
                | (apply stepWith heq; (focus (with_reducible apply (h.generateExpression); done)); clear h; intro h)
                | (apply stepWith heq; (focus (with_reducible apply (h.appendPrologue); done)); clear h; intro h)
                | (apply stepWith heq; (focus (with_reducible apply (h.appendEpilogue); done)); clear h; intro h)
                | (apply stepWith heq; (focus (with_reducible apply (h.generateBoundsCheck); done)); clear h; intro h)
                | (apply stepWith heq; (focus (with_reducible apply (Grows.appendElements (fun e _ => exprOK e) h); done)); clear h; intro h)
                | (apply stepWith heq; (focus (with_reducible apply (Grows.callArguments (fun e _ => exprOK e) h); done)); clear h; intro h)
                | (apply stepWith heq; (focus (with_reducible apply (Grows.printfArguments (fun e _ => exprOK e) h); done)); clear h; intro h)
                | (apply stepWith heq; (focus (with_reducible apply (Grows.arrayElements (fun e _ => exprOK e) h); done)); clear h; intro h)
                | (apply stepWith heq; (focus (with_reducible apply (h.bindLiteralParameters); done)); clear h; intro h)
                | (apply stepWith heq; (focus (with_reducible apply (Grows.generateBlockStatement (fun s _ => stmtOK s) h); done)); clear h; intro h)
                | (apply stepWith heq; (focus (with_reducible apply (h.implicitReturn); done)); clear h; intro h)
                | (apply stepWith heq; (focus (with_reducible apply (h.brIfOpen); done)); clear h; intro h)
                | fail))
      | (cases e; first | done | exact hs.extend | exact h.report _ | fail)
      | (dsimp only at e)
      | fail)
  · rw [generateAppendCall_one_eq] at e
    try simp only [IRGenerator.NewAlloca, IRGenerator.NewLoad, IRGenerator.NewBin, IRGenerator.NewICmp, IRGenerator.NewFCmp, IRGenerator.NewGetElementPtr, IRGenerator.funcValue, NewCall_func, IRGenerator.NewCall, IRGenerator.NewZExt, IRGenerator.NewSelect, IRGenerator.NewBr, IRGenerator.NewCondBr, IRGenerator.NewRet, IRGenerator.NewUnreachable, IRGenerator.NewFunc, IRGenerator.NewGlobalDef] at e
    repeat' (first
      | (with_reducible first
          | (revert e; apply (hs.step ∘ ((Grows.refl _).NewInst)); done)
          | (revert e; apply (hs.step ∘ ((Grows.refl _).NewStore)); done)
          | (revert e; apply (hs.step ∘ ((Grows.refl _).NewTerm)); done)
          | (revert e; apply (hs.step ∘ ((Grows.refl _).NewBlock)); done)
          | (revert e; apply (hs.step ∘ ((Grows.refl _).generateExpression)); done)
          | (revert e; apply (hs.step ∘ ((Grows.refl _).appendPrologue)); done)
          | (revert e; apply (hs.step ∘ ((Grows.refl _).appendEpilogue)); done)
          | (revert e; apply (hs.step ∘ ((Grows.refl _).generateBoundsCheck)); done)
          | (revert e; apply (hs.step ∘ (Grows.appendElements (fun e _ => exprOK e) (Grows.refl _))); done)
          | (revert e; apply (hs.step ∘ (Grows.callArguments (fun e _ => exprOK e) (Grows.refl _))); done)
          | (revert e; apply (hs.step ∘ (Grows.printfArguments (fun e _ => exprOK e) (Grows.refl _))); done)
          | (revert e; apply (hs.step ∘ (Grows.arrayElements (fun e _ => exprOK e) (Grows.refl _))); done)
          | (revert e; apply (hs.step ∘ ((Grows.refl _).bindLiteralParameters)); done)
          | (revert e; apply (hs.step ∘ (Grows.generateBlockStatement (fun s _ => stmtOK s) (Grows.refl _))); done)
          | (revert e; apply (hs.step ∘ ((Grows.refl _).implicitReturn)); done)
          | (revert e; apply (hs.step ∘ ((Grows.refl _).brIfOpen)); done)
          | (revert e; apply (hs.step ∘ ((Grows.refl _).asResult)); done)
          | (revert e; apply (hs.step ∘ ((Grows.refl _).failWith)); done)
          | (revert e; apply (hs.step ∘ ((Grows.refl _).generateIdentifier)); done)
          | (revert e; apply (hs.step ∘ ((Grows.refl _).prefixOperator)); done)
          | (revert e; apply (hs.step ∘ ((Grows.refl _).generatePostfixExpression)); done)
          | (revert e; apply (hs.step ∘ ((Grows.refl _).generateStringConcatenation)); done)
          | (revert e; apply (hs.step ∘ ((Grows.refl _).infixOperator)); done)
          | (revert e; apply (hs.step ∘ ((Grows.refl _).indexAccess)); done)
          | (revert e; apply (hs.step ∘ ((Grows.refl _).lenOrCap)); done)
          | (revert e; apply (hs.step ∘ ((Grows.refl _).makeSlice)); done)
          | (revert e; apply (hs.step ∘ ((Grows.refl _).printfNoArguments)); done)
          | (revert e; apply (hs.step ∘ ((Grows.refl _).printfCall)); done)
          | (revert e; apply (hs.step ∘ (Grows.generateLenCall (fun e _ => exprOK e) (Grows.refl _))); done)
          | (revert e; apply (hs.step ∘ (Grows.generateCapCall (fun e _ => exprOK e) (Grows.refl _))); done)
          | (revert e; apply (hs.step ∘ (Grows.generateAppendCall (fun e _ => exprOK e) (Grows.refl _))); done)
          | (revert e; apply (hs.step ∘ (Grows.generateMakeCall (fun e _ => exprOK e) (Grows.refl _))); done)
          | (revert e; apply (hs.step ∘ (Grows.generateExitCall (fun e _ => exprOK e) (Grows.refl _))); done)
          | (revert e; apply (h.asResult_nil); done)
          | (revert e; apply (h.failWith_nil); done)
          | fail)
      | (apply stepWith e; (focus (with_reducible apply (@ite_ok _ _ _ _ _ _); done)); intro e2
         clear e
         rcases e2 with ⟨_, e⟩ | ⟨_, e⟩)
      | (simp only [bind_assoc, pure_bind] at e)
      | (rw [bind_ok] at e
         obtain ⟨⟨x1, g1⟩, e1, e⟩ := e
         try dsimp only at e
         first
           | (apply stepWith e1; (focus (with_reducible apply (hs.step ∘ ((Grows.refl _).NewInst)); done)); clear hs; intro hs)
           | (apply stepWith e1; (focus (with_reducible apply (hs.step ∘ ((Grows.refl _).NewStore)); done)); clear hs; intro hs)
           | (apply stepWith e1; (focus (with_reducible apply (hs.step ∘ ((Grows.refl _).NewTerm)); done)); clear hs; intro hs)
           | (apply stepWith e1; (focus (with_reducible apply (hs.step ∘ ((Grows.refl _).NewBlock)); done)); clear hs; intro hs)
           | (apply stepWith e1; (focus (with_reducible apply (hs.step ∘ ((Grows.refl _).generateExpression)); done)); clear hs; intro hs)
           | (apply stepWith e1; (focus (with_reducible apply (hs.step ∘ ((Grows.refl _).appendPrologue)); done)); clear hs; intro hs)
           | (apply stepWith e1; (focus (with_reducible apply (hs.step ∘ ((Grows.refl _).appendEpilogue)); done)); clear hs; intro hs)
           | (apply stepWith e1; (focus (with_reducible apply (hs.step ∘ ((Grows.refl _).generateBoundsCheck)); done)); clear hs; intro hs)
           | (apply stepWith e1; (focus (with_reducible apply (hs.step ∘ (Grows.appendElements (fun e _ => exprOK e) (Grows.refl _))); done)); clear hs; intro hs)
           | (apply stepWith e1; (focus (with_reducible apply (hs.step ∘ (Grows.callArguments (fun e _ => exprOK e) (Grows.refl _))); done)); clear hs; intro hs)
           | (apply stepWith e1; (focus (with_reducible apply (hs.step ∘ (Grows.printfArguments (fun e _ => exprOK e) (Grows.refl _))); done)); clear hs; intro hs)
           | (apply stepWith e1; (focus (with_reducible apply (hs.step ∘ (Grows.arrayElements (fun e _ => exprOK e) (Grows.refl _))); done)); clear hs; intro hs)
           | (apply stepWith e1; (focus (with_reducible apply (hs.step ∘ ((Grows.refl _).bindLiteralParameters)); done)); clear hs; intro hs)
           | (apply stepWith e1; (focus (with_reducible apply (hs.step ∘ (Grows.generateBlockStatement (fun s _ => stmtOK s) (Grows.refl _))); done)); clear hs; intro hs)
           | (apply stepWith e1; (focus (with_reducible apply (hs.step ∘ ((Grows.refl _).implicitReturn)); done)); clear hs; intro hs)
           | (apply stepWith e1; (focus (with_reducible apply (hs.step ∘ ((Grows.refl _).brIfOpen)); done)); clear hs; intro hs)
           | (apply stepWith e1; (focus (with_reducible apply (h.NewInst); done)); clear h; intro h)
           | (apply stepWith e1; (focus (with_reducible apply (h.NewStore); done)); clear h; intro h)
           | (apply stepWith e1; (focus (with_reducible apply (h.NewTerm); done)); clear h; intro h)
           | (apply stepWith e1; (focus (with_reducible apply (h.NewBlock); done)); clear h; intro h)
           | (apply stepWith e1; (focus (with_reducible apply (h.generateExpression); done)); clear h; intro h)
           | (apply stepWith e1; (focus (with_reducible apply (h.appendPrologue); done)); clear h; intro h)
           | (apply stepWith e1; (focus (with_reducible apply (h.appendEpilogue); done)); clear h; intro h)
           | (apply stepWith e1; (focus (with_reducible apply (h.generateBoundsCheck); done)); clear h; intro h)
           | (apply stepWith e1; (focus (with_reducible apply (Grows.appendElements (fun e _ => exprOK e) h); done)); clear h; intro h)
           | (apply stepWith e1; (focus (with_reducible apply (Grows.callArguments (fun e _ => exprOK e) h); done)); clear h; intro h)
           | (apply stepWith e1; (focus (with_reducible apply (Grows.printfArguments (fun e _ => exprOK e) h); done)); clear h; intro h)
           | (apply stepWith e1; (focus (with_reducible apply (Grows.arrayElements (fun e _ => exprOK e) h); done)); clear h; intro h)
           | (apply stepWith e1; (focus (with_reducible apply (h.bindLiteralParameters); done)); clear h; intro h)
           | (apply stepWith e1; (focus (with_reducible apply (Grows.generateBlockStatement (fun s _ => stmtOK s) h); done)); clear h; intro h)
           | (apply stepWith e1; (focus (with_reducible apply (h.implicitReturn); done)); clear h; intro h)
           | (apply stepWith e1; (focus (with_reducible apply (h.brIfOpen); done)); clear h; intro h)
           | (cases e1)
           | fail)
      | (split at e <;>
         try (rename_i heq
              first
                | (apply stepWith heq; (focus (with_reducible apply (hs.step ∘ ((Grows.refl _).getOrDeclare)); done)); clear hs; intro hs)
                | (apply stepWith heq; (focus (with_reducible apply (hs.step ∘ ((Grows.refl _).resolveCallee)); done)); clear hs; intro hs)
                | (apply stepWith heq; (focus (with_reducible apply (hs.step ∘ ((Grows.refl _).generateStringLiteral)); done)); clear hs; intro hs)
                | (apply stepWith heq; (focus (with_reducible apply (hs.step ∘ ((Grows.refl _).NewInst)); done)); clear hs; intro hs)
                | (apply stepWith heq; (focus (with_reducible apply (hs.step ∘ ((Grows.refl _).NewStore)); done)); clear hs; intro hs)
                | (apply stepWith heq; (focus (with_reducible apply (hs.step ∘ ((Grows.refl _).NewTerm)); done)); clear hs; intro hs)
                | (apply stepWith heq; (focus (with_reducible apply (hs.step ∘ ((Grows.refl _).NewBlock)); done)); clear hs; intro hs)
                | (apply stepWith heq; (focus (with_reducible apply (hs.step ∘ ((Grows.refl _).generateExpression)); done)); clear hs; intro hs)
                | (apply stepWith heq; (focus (with_reducible apply (hs.step ∘ ((Grows.refl _).appendPrologue)); done)); clear hs; intro hs)
                | (apply stepWith heq; (focus (with_reducible apply (hs.step ∘ ((Grows.refl _).appendEpilogue)); done)); clear hs; intro hs)
                | (apply stepWith heq; (focus (with_reducible apply (hs.step ∘ ((Grows.refl _).generateBoundsCheck)); done)); clear hs; intro hs)
                | (apply stepWith heq; (focus (with_reducible apply (hs.step ∘ (Grows.appendElements (fun e _ => exprOK e) (Grows.refl _))); done)); clear hs; intro hs)
                | (apply stepWith heq; (focus (with_reducible apply (hs.step ∘ (Grows.callArguments (fun e _ => exprOK e) (Grows.refl _))); done)); clear hs; intro hs)
                | (apply stepWith heq; (focus (with_reducible apply (hs.step ∘ (Grows.printfArguments (fun e _ => exprOK e) (Grows.refl _))); done)); clear hs; intro hs)
                | (apply stepWith heq; (focus (with_reducible apply (hs.step ∘ (Grows.arrayElements (fun e _ => exprOK e) (Grows.refl _))); done)); clear hs; intro hs)
                | (apply stepWith heq; (focus (with_reducible apply (hs.step ∘ ((Grows.refl _).bindLiteralParameters)); done)); clear hs; intro hs)
                | (apply stepWith heq; (focus (with_reducible apply (hs.step ∘ (Grows.generateBlockStatement (fun s _ => stmtOK s) (Grows.refl _))); done)); clear hs; intro hs)
                | (apply stepWith heq; (focus (with_reducible apply (hs.step ∘ ((Grows.refl _).implicitReturn)); done)); clear hs; intro hs)
                | (apply stepWith heq; (focus (with_reducible apply (hs.step ∘ ((Grows.refl _).brIfOpen)); done)); clear hs; intro hs)
                | (apply stepWith heq; (focus (with_reducible apply (h.getOrDeclare); done)); clear h; intro h)
                | (apply stepWith heq; (focus (with_reducible apply (h.resolveCallee); done)); clear h; intro h)
                | (apply stepWith heq; (focus (with_reducible apply (h.generateStringLiteral); done)); clear h; intro h)
                | (apply stepWith heq; (focus (with_reducible apply (h.NewInst); done)); clear h; intro h)
                | (apply stepWith heq; (focus (with_reducible apply (h.NewStore); done)); clear h; intro h)
                | (apply stepWith heq; (focus (with_reducible apply (h.NewTerm); done)); clear h; intro h)
                | (apply stepWith heq; (focus (with_reducible apply (h.NewBlock); done)); clear h; intro h)
                | (apply stepWith heq; (focus (with_reducible apply (h.generateExpression); done)); clear h; intro h)
                | (apply stepWith heq; (focus (with_reducible apply (h.appendPrologue); done)); clear h; intro h)
                | (apply stepWith heq; (focus (with_reducible apply (h.appendEpilogue); done)); clear h; intro h)
                | (apply stepWith heq; (focus (with_reducible apply (h.generateBoundsCheck); done)); clear h; intro h)
                | (apply stepWith heq; (focus (with_reducible apply (Grows.appendElements (fun e _ => exprOK e) h); done)); clear h; intro h)
                | (apply stepWith heq; (focus (with_reducible apply (Grows.callArguments (fun e _ => exprOK e) h); done)); clear h; intro h)
                | (apply stepWith heq; (focus (with_reducible apply (Grows.printfArguments (fun e _ => exprOK e) h); done)); clear h; intro h)
                | (apply stepWith heq; (focus (with_reducible apply (Grows.arrayElements (fun e _ => exprOK e) h); done)); clear h; intro h)
                | (apply stepWith heq; (focus (with_reducible apply (h.bindLiteralParameters); done)); clear h; intro h)
                | (apply stepWith heq; (focus (with_reducible apply (Grows.generateBlockStatement (fun s _ => stmtOK s) h); done)); clear h; intro h)
                | (apply stepWith heq; (focus (with_reducible apply (h.implicitReturn); done)); clear h; intro h)
                | (apply stepWith heq; (focus (with_reducible apply (h.brIfOpen); done)); clear h; intro h)
                | fail))
      | (cases e; first | done | exact hs.extend | exact h.report _ | fail)
      | (dsimp only at e)
      | fail)
  · rw [generateAppendCall_more_eq] at e
    have ih0 := ih _ _ rfl
    try simp only [IRGenerator.NewAlloca, IRGenerator.NewLoad, IRGenerator.NewBin, IRGenerator.NewICmp, IRGenerator.NewFCmp, IRGenerator.NewGetElementPtr, IRGenerator.funcValue, NewCall_func, IRGenerator.NewCall, IRGenerator.NewZExt, IRGenerator.NewSelect, IRGenerator.NewBr, IRGenerator.NewCondBr, IRGenerator.NewRet, IRGenerator.NewUnreachable, IRGenerator.NewFunc, IRGenerator.NewGlobalDef] at e
    repeat' (first
      | (with_reducible first
          | (revert e; apply (hs.step ∘ ((Grows.refl _).NewInst)); done)
          | (revert e; apply (hs.step ∘ ((Grows.refl _).NewStore)); done)
          | (revert e; apply (hs.step ∘ ((Grows.refl _).NewTerm)); done)
          | (revert e; apply (hs.step ∘ ((Grows.refl _).NewBlock)); done)
          | (revert e; apply (hs.step ∘ ((Grows.refl _).generateExpression)); done)
          | (revert e; apply (hs.step ∘ ((Grows.refl _).appendPrologue)); done)
          | (revert e; apply (hs.step ∘ ((Grows.refl _).appendEpilogue)); done)
          | (revert e; apply (hs.step ∘ ((Grows.refl _).generateBoundsCheck)); done)
          | (revert e; apply (hs.step ∘ (Grows.appendElements (fun e _ => exprOK e) (Grows.refl _))); done)
          | (revert e; apply (hs.step ∘ (Grows.callArguments (fun e _ => exprOK e) (Grows.refl _))); done)
          | (revert e; apply (hs.step ∘ (Grows.printfArguments (fun e _ => exprOK e) (Grows.refl _))); done)
          | (revert e; apply (hs.step ∘ (Grows.arrayElements (fun e _ => exprOK e) (Grows.refl _))); done)
          | (revert e; apply (hs.step ∘ ((Grows.refl _).bindLiteralParameters)); done)
          | (revert e; apply (hs.step ∘ (Grows.generateBlockStatement (fun s _ => stmtOK s) (Grows.refl _))); done)
          | (revert e; apply (hs.step ∘ ((Grows.refl _).implicitReturn)); done)
          | (revert e; apply (hs.step ∘ ((Grows.refl _).brIfOpen)); done)
          | (revert e; apply (hs.step ∘ ((Grows.refl _).asResult)); done)
          | (revert e; apply (hs.step ∘ ((Grows.refl _).failWith)); done)
          | (revert e; apply (hs.step ∘ ((Grows.refl _).generateIdentifier)); done)
          | (revert e; apply (hs.step ∘ ((Grows.refl _).prefixOperator)); done)
          | (revert e; apply (hs.step ∘ ((Grows.refl _).generatePostfixExpression)); done)
          | (revert e; apply (hs.step ∘ ((Grows.refl _).generateStringConcatenation)); done)
          | (revert e; apply (hs.step ∘ ((Grows.refl _).infixOperator)); done)
          | (revert e; apply (hs.step ∘ ((Grows.refl _).indexAccess)); done)
          | (revert e; apply (hs.step ∘ ((Grows.refl _).lenOrCap)); done)
          | (revert e; apply (hs.step ∘ ((Grows.refl _).makeSlice)); done)
          | (revert e; apply (hs.step ∘ ((Grows.refl _).printfNoArguments)); done)
          | (revert e; apply (hs.step ∘ ((Grows.refl _).printfCall)); done)
          | (revert e; apply (hs.step ∘ (Grows.generateLenCall (fun e _ => exprOK e) (Grows.refl _))); done)
          | (revert e; apply (hs.step ∘ (Grows.generateCapCall (fun e _ => exprOK e) (Grows.refl _))); done)
          | (revert e; apply (hs.step ∘ (Grows.generateAppendCall (fun e _ => exprOK e) (Grows.refl _))); done)
          | (revert e; apply (hs.step ∘ (Grows.generateMakeCall (fun e _ => exprOK e) (Grows.refl _))); done)
          | (revert e; apply (hs.step ∘ (Grows.generateExitCall (fun e _ => exprOK e) (Grows.refl _))); done)
          | (revert e; apply (h.asResult_nil); done)
          | (revert e; apply (h.failWith_nil); done)
          | (revert e; apply (h.strict ∘ (ih0.strict)); done)
          | fail)
      | (apply stepWith e; (focus (with_reducible apply (@ite_ok _ _ _ _ _ _); done)); intro e2
         clear e
         rcases e2 with ⟨_, e⟩ | ⟨_, e⟩)
      | (simp only [bind_assoc, pure_bind] at e)
      | (rw [bind_ok] at e
         obtain ⟨⟨x1, g1⟩, e1, e⟩ := e
         try dsimp only at e
         first
           | (apply stepWith e1; (focus (with_reducible apply (hs.step ∘ ((Grows.refl _).NewInst)); done)); clear hs; intro hs)
           | (apply stepWith e1; (focus (with_reducible apply (hs.step ∘ ((Grows.refl _).NewStore)); done)); clear hs; intro hs)
           | (apply stepWith e1; (focus (with_reducible apply (hs.step ∘ ((Grows.refl _).NewTerm)); done)); clear hs; intro hs)
           | (apply stepWith e1; (focus (with_reducible apply (hs.step ∘ ((Grows.refl _).NewBlock)); done)); clear hs; intro hs)
           | (apply stepWith e1; (focus (with_reducible apply (hs.step ∘ ((Grows.refl _).generateExpression)); done)); clear hs; intro hs)
           | (apply stepWith e1; (focus (with_reducible apply (hs.step ∘ ((Grows.refl _).appendPrologue)); done)); clear hs; intro hs)
           | (apply stepWith e1; (focus (with_reducible apply (hs.step ∘ ((Grows.refl _).appendEpilogue)); done)); clear hs; intro hs)
           | (apply stepWith e1; (focus (with_reducible apply (hs.step ∘ ((Grows.refl _).generateBoundsCheck)); done)); clear hs; intro hs)
           | (apply stepWith e1; (focus (with_reducible apply (hs.step ∘ (Grows.appendElements (fun e _ => exprOK e) (Grows.refl _))); done)); clear hs; intro hs)
           | (apply stepWith e1; (focus (with_reducible apply (hs.step ∘ (Grows.callArguments (fun e _ => exprOK e) (Grows.refl _))); done)); clear hs; intro hs)
           | (apply stepWith e1; (focus (with_reducible apply (hs.step ∘ (Grows.printfArguments (fun e _ => exprOK e) (Grows.refl _))); done)); clear hs; intro hs)
           | (apply stepWith e1; (focus (with_reducible apply (hs.step ∘ (Grows.arrayElements (fun e _ => exprOK e) (Grows.refl _))); done)); clear hs; intro hs)
           | (apply stepWith e1; (focus (with_reducible apply (hs.step ∘ ((Grows.refl _).bindLiteralParameters)); done)); clear hs; intro hs)
           | (apply stepWith e1; (focus (with_reducible apply (hs.step ∘ (Grows.generateBlockStatement (fun s _ => stmtOK s) (Grows.refl _))); done)); clear hs; intro hs)
           | (apply stepWith e1; (focus (with_reducible apply (hs.step ∘ ((Grows.refl _).implicitReturn)); done)); clear hs; intro hs)
           | (apply stepWith e1; (focus (with_reducible apply (hs.step ∘ ((Grows.refl _).brIfOpen)); done)); clear hs; intro hs)
           | (have hg := h.generateExpressionOf a0 e1
              rcases x1 with _ | v1 <;>
                first | (have hs := h.strict (ih0.strict e1)) | (replace h := hg))
           | (apply stepWith e1; (focus (with_reducible apply (h.NewInst); done)); clear h; intro h)
           | (apply stepWith e1; (focus (with_reducible apply (h.NewStore); done)); clear h; intro h)
           | (apply stepWith e1; (focus (with_reducible apply (h.NewTerm); done)); clear h; intro h)
           | (apply stepWith e1; (focus (with_reducible apply (h.NewBlock); done)); clear h; intro h)
           | (apply stepWith e1; (focus (with_reducible apply (h.generateExpression); done)); clear h; intro h)
           | (apply stepWith e1; (focus (with_reducible apply (h.appendPrologue); done)); clear h; intro h)
           | (apply stepWith e1; (focus (with_reducible apply (h.appendEpilogue); done)); clear h; intro h)
           | (apply stepWith e1; (focus (with_reducible apply (h.generateBoundsCheck); done)); clear h; intro h)
           | (apply stepWith e1; (focus (with_reducible apply (Grows.appendElements (fun e _ => exprOK e) h); done)); clear h; intro h)
           | (apply stepWith e1; (focus (with_reducible apply (Grows.callArguments (fun e _ => exprOK e) h); done)); clear h; intro h)
           | (apply stepWith e1; (focus (with_reducible apply (Grows.printfArguments (fun e _ => exprOK e) h); done)); clear h; intro h)
           | (apply stepWith e1; (focus (with_reducible apply (Grows.arrayElements (fun e _ => exprOK e) h); done)); clear h; intro h)
           | (apply stepWith e1; (focus (with_reducible apply (h.bindLiteralParameters); done)); clear h; intro h)
           | (apply stepWith e1; (focus (with_reducible apply (Grows.generateBlockStatement (fun s _ => stmtOK s) h); done)); clear h; intro h)
           | (apply stepWith e1; (focus (with_reducible apply (h.implicitReturn); done)); clear h; intro h)
           | (apply stepWith e1; (focus (with_reducible apply (h.brIfOpen); done)); clear h; intro h)
           | (cases e1)
           | fail)
      | (split at e <;>
         try (rename_i heq
              first
                | (apply stepWith heq; (focus (with_reducible apply (hs.step ∘ ((Grows.refl _).getOrDeclare)); done)); clear hs; intro hs)
                | (apply stepWith heq; (focus (with_reducible apply (hs.step ∘ ((Grows.refl _).resolveCallee)); done)); clear hs; intro hs)
                | (apply stepWith heq; (focus (with_reducible apply (hs.step ∘ ((Grows.refl _).generateStringLiteral)); done)); clear hs; intro hs)
                | (apply stepWith heq; (focus (with_reducible apply (hs.step ∘ ((Grows.refl _).NewInst)); done)); clear hs; intro hs)
                | (apply stepWith heq; (focus (with_reducible apply (hs.step ∘ ((Grows.refl _).NewStore)); done)); clear hs; intro hs)
                | (apply stepWith heq; (focus (with_reducible apply (hs.step ∘ ((Grows.refl _).NewTerm)); done)); clear hs; intro hs)
                | (apply stepWith heq; (focus (with_reducible apply (hs.step ∘ ((Grows.refl _).NewBlock)); done)); clear hs; intro hs)
                | (apply stepWith heq; (focus (with_reducible apply (hs.step ∘ ((Grows.refl _).generateExpression)); done)); clear hs; intro hs)
                | (apply stepWith heq; (focus (with_reducible apply (hs.step ∘ ((Grows.refl _).appendPrologue)); done)); clear hs; intro hs)
                | (apply stepWith heq; (focus (with_reducible apply (hs.step ∘ ((Grows.refl _).appendEpilogue)); done)); clear hs; intro hs)
                | (apply stepWith heq; (focus (with_reducible apply (hs.step ∘ ((Grows.refl _).generateBoundsCheck)); done)); clear hs; intro hs)
                | (apply stepWith heq; (focus (with_reducible apply (hs.step ∘ (Grows.appendElements (fun e _ => exprOK e) (Grows.refl _))); done)); clear hs; intro hs)
                | (apply stepWith heq; (focus (with_reducible apply (hs.step ∘ (Grows.callArguments (fun e _ => exprOK e) (Grows.refl _))); done)); clear hs; intro hs)
                | (apply stepWith heq; (focus (with_reducible apply (hs.step ∘ (Grows.printfArguments (fun e _ => exprOK e) (Grows.refl _))); done)); clear hs; intro hs)
                | (apply stepWith heq; (focus (with_reducible apply (hs.step ∘ (Grows.arrayElements (fun e _ => exprOK e) (Grows.refl _))); done)); clear hs; intro hs)
                | (apply stepWith heq; (focus (with_reducible apply (hs.step ∘ ((Grows.refl _).bindLiteralParameters)); done)); clear hs; intro hs)
                | (apply stepWith heq; (focus (with_reducible apply (hs.step ∘ (Grows.generateBlockStatement (fun s _ => stmtOK s) (Grows.refl _))); done)); clear hs; intro hs)
                | (apply stepWith heq; (focus (with_reducible apply (hs.step ∘ ((Grows.refl _).implicitReturn)); done)); clear hs; intro hs)
                | (apply stepWith heq; (focus (with_reducible apply (hs.step ∘ ((Grows.refl _).brIfOpen)); done)); clear hs; intro hs)
                | (apply stepWith heq; (focus (with_reducible apply (h.getOrDeclare); done)); clear h; intro h)
                | (apply stepWith heq; (focus (with_reducible apply (h.resolveCallee); done)); clear h; intro h)
                | (apply stepWith heq; (focus (with_reducible apply (h.generateStringLiteral); done)); clear h; intro h)
                | (apply stepWith heq; (focus (with_reducible apply (h.NewInst); done)); clear h; intro h)
                | (apply stepWith heq; (focus (with_reducible apply (h.NewStore); done)); clear h; intro h)
                | (apply stepWith heq; (focus (with_reducible apply (h.NewTerm); done)); clear h; intro h)
                | (apply stepWith heq; (focus (with_reducible apply (h.NewBlock); done)); clear h; intro h)
                | (apply stepWith heq; (focus (with_reducible apply (h.generateExpression); done)); clear h; intro h)
                | (apply stepWith heq; (focus (with_reducible apply (h.appendPrologue); done)); clear h; intro h)
                | (apply stepWith heq; (focus (with_reducible apply (h.appendEpilogue); done)); clear h; intro h)
                | (apply stepWith heq; (focus (with_reducible apply (h.generateBoundsCheck); done)); clear h; intro h)
                | (apply stepWith heq; (focus (with_reducible apply (Grows.appendElements (fun e _ => exprOK e) h); done)); clear h; intro h)
                | (apply stepWith heq; (focus (with_reducible apply (Grows.callArguments (fun e _ => exprOK e) h); done)); clear h; intro h)
                | (apply stepWith heq; (focus (with_reducible apply (Grows.printfArguments (fun e _ => exprOK e) h); done)); clear h; intro h)
                | (apply stepWith heq; (focus (with_reducible apply (Grows.arrayElements (fun e _ => exprOK e) h); done)); clear h; intro h)
                | (apply stepWith heq; (focus (with_reducible apply (h.bindLiteralParameters); done)); clear h; intro h)
                | (apply stepWith heq; (focus (with_reducible apply (Grows.generateBlockStatement (fun s _ => stmtOK s) h); done)); clear h; intro h)
                | (apply stepWith heq; (focus (with_reducible apply (h.implicitReturn); done)); clear h; intro h)
                | (apply stepWith heq; (focus (with_reducible apply (h.brIfOpen); done)); clear h; intro h)
                | fail))
      | (cases e; first | done | exact hs.extend | exact h.report _ | fail)
      | (dsimp only at e)
      | fail)

theorem Grows.generateMakeCall_nil {l : List Expression} (ih : ∀ a rest, l = a :: rest → NilOK a)
    {a g x g' : IRGenerator} [Ext g x] (h : Grows a g)
    (e : Irgen.generateMakeCall l x = .ok (none, g')) : Strict a g' := by
  replace h : Grows a x := h.ext
  rcases l with _ | ⟨t, _ | ⟨b, _ | ⟨c, rest⟩⟩⟩
  · rw [generateMakeCall_nil_eq] at e
    try simp only [IRGenerator.NewAlloca, IRGenerator.NewLoad, IRGenerator.NewBin, IRGenerator.NewICmp, IRGenerator.NewFCmp, IRGenerator.NewGetElementPtr, IRGenerator.funcValue, NewCall_func, IRGenerator.NewCall, IRGenerator.NewZExt, IRGenerator.NewSelect, IRGenerator.NewBr, IRGenerator.NewCondBr, IRGenerator.NewRet, IRGenerator.NewUnreachable, IRGenerator.NewFunc, IRGenerator.NewGlobalDef] at e
    repeat' (first
      | (with_reducible first
          | (revert e; apply (hs.step ∘ ((Grows.refl _).NewInst)); done)
          | (revert e; apply (hs.step ∘ ((Grows.refl _).NewStore)); done)
          | (revert e; apply (hs.step ∘ ((Grows.refl _).NewTerm)); done)
          | (revert e; apply (hs.step ∘ ((Grows.refl _).NewBlock)); done)
          | (revert e; apply (hs.step ∘ ((Grows.refl _).generateExpression)); done)
          | (revert e; apply (hs.step ∘ ((Grows.refl _).appendPrologue)); done)
          | (revert e; apply (hs.step ∘ ((Grows.refl _).appendEpilogue)); done)
          | (revert e; apply (hs.step ∘ ((Grows.refl _).generateBoundsCheck)); done)
          | (revert e; apply (hs.step ∘ (Grows.appendElements (fun e _ => exprOK e) (Grows.refl _))); done)
          | (revert e; apply (hs.step ∘ (Grows.callArguments (fun e _ => exprOK e) (Grows.refl _))); done)
          | (revert e; apply (hs.step ∘ (Grows.printfArguments (fun e _ => exprOK e) (Grows.refl _))); done)
          | (revert e; apply (hs.step ∘ (Grows.arrayElements (fun e _ => exprOK e) (Grows.refl _))); done)
          | (revert e; apply (hs.step ∘ ((Grows.refl _).bindLiteralParameters)); done)
          | (revert e; apply (hs.step ∘ (Grows.generateBlockStatement (fun s _ => stmtOK s) (Grows.refl _))); done)
          | (revert e; apply (hs.step ∘ ((Grows.refl _).implicitReturn)); done)
          | (revert e; apply (hs.step ∘ ((Grows.refl _).brIfOpen)); done)
          | (revert e; apply (hs.step ∘ ((Grows.refl _).asResult)); done)
          | (revert e; apply (hs.step ∘ ((Grows.refl _).failWith)); done)
          | (revert e; apply (hs.step ∘ ((Grows.refl _).generateIdentifier)); done)
          | (revert e; apply (hs.step ∘ ((Grows.refl _).prefixOperator)); done)
          | (revert e; apply (hs.step ∘ ((Grows.refl _).generatePostfixExpression)); done)
          | (revert e; apply (hs.step ∘ ((Grows.refl _).generateStringConcatenation)); done)
          | (revert e; apply (hs.step ∘ ((Grows.refl _).infixOperator)); done)
          | (revert e; apply (hs.step ∘ ((Grows.refl _).indexAccess)); done)
          | (revert e; apply (hs.step ∘ ((Grows.refl _).lenOrCap)); done)
          | (revert e; apply (hs.step ∘ ((Grows.refl _).makeSlice)); done)
          | (revert e; apply (hs.step ∘ ((Grows.refl _).printfNoArguments)); done)
          | (revert e; apply (hs.step ∘ ((Grows.refl _).printfCall)); done)
          | (revert e; apply (hs.step ∘ (Grows.generateLenCall (fun e _ => exprOK e) (Grows.refl _))); done)
          | (revert e; apply (hs.step ∘ (Grows.generateCapCall (fun e _ => exprOK e) (Grows.refl _))); done)
          | (revert e; apply (hs.step ∘ (Grows.generateAppendCall (fun e _ => exprOK e) (Grows.refl _))); done)
          | (revert e; apply (hs.step ∘ (Grows.generateMakeCall (fun e _ => exprOK e) (Grows.refl _))); done)
          | (revert e; apply (hs.step ∘ (Grows.generateExitCall (fun e _ => exprOK e) (Grows.refl _))); done)
          | (revert e; apply (h.asResult_nil); done)
          | (revert e; apply (h.failWith_nil); done)
          | fail)
      | (apply stepWith e; (focus (with_reducible apply (@ite_ok _ _ _ _ _ _); done)); intro e2
         clear e
         rcases e2 with ⟨_, e⟩ | ⟨_, e⟩)
      | (simp only [bind_assoc, pure_bind] at e)
      | (rw [bind_ok] at e
         obtain ⟨⟨x1, g1⟩, e1, e⟩ := e
         try dsimp only at e
         first
           | (apply stepWith e1; (focus (with_reducible apply (hs.step ∘ ((Grows.refl _).NewInst)); done)); clear hs; intro hs)
           | (apply stepWith e1; (focus (with_reducible apply (hs.step ∘ ((Grows.refl _).NewStore)); done)); clear hs; intro hs)
           | (apply stepWith e1; (focus (with_reducible apply (hs.step ∘ ((Grows.refl _).NewTerm)); done)); clear hs; intro hs)
           | (apply stepWith e1; (focus (with_reducible apply (hs.step ∘ ((Grows.refl _).NewBlock)); done)); clear hs; intro hs)
           | (apply stepWith e1; (focus (with_reducible apply (hs.step ∘ ((Grows.refl _).generateExpression)); done)); clear hs; intro hs)
           | (apply stepWith e1; (focus (with_reducible apply (hs.step ∘ ((Grows.refl _).appendPrologue)); done)); clear hs; intro hs)
           | (apply stepWith e1; (focus (with_reducible apply (hs.step ∘ ((Grows.refl _).appendEpilogue)); done)); clear hs; intro hs)
           | (apply stepWith e1; (focus (with_reducible apply (hs.step ∘ ((Grows.refl _).generateBoundsCheck)); done)); clear hs; intro hs)
           | (apply stepWith e1; (focus (with_reducible apply (hs.step ∘ (Grows.appendElements (fun e _ => exprOK e) (Grows.refl _))); done)); clear hs; intro hs)
           | (apply stepWith e1; (focus (with_reducible apply (hs.step ∘ (Grows.callArguments (fun e _ => exprOK e) (Grows.refl _))); done)); clear hs; intro hs)
           | (apply stepWith e1; (focus (with_reducible apply (hs.step ∘ (Grows.printfArguments (fun e _ => exprOK e) (Grows.refl _))); done)); clear hs; intro hs)
           | (apply stepWith e1; (focus (with_reducible apply (hs.step ∘ (Grows.arrayElements (fun e _ => exprOK e) (Grows.refl _))); done)); clear hs; intro hs)
           | (apply stepWith e1; (focus (with_reducible apply (hs.step ∘ ((Grows.refl _).bindLiteralParameters)); done)); clear hs; intro hs)
           | (apply stepWith e1; (focus (with_reducible apply (hs.step ∘ (Grows.generateBlockStatement (fun s _ => stmtOK s) (Grows.refl _))); done)); clear hs; intro hs)
           | (apply stepWith e1; (focus (with_reducible apply (hs.step ∘ ((Grows.refl _).implicitReturn)); done)); clear hs; intro hs)
           | (apply stepWith e1; (focus (with_reducible apply (hs.step ∘ ((Grows.refl _).brIfOpen)); done)); clear hs; intro hs)
           | (apply stepWith e1; (focus (with_reducible apply (h.NewInst); done)); clear h; intro h)
           | (apply stepWith e1; (focus (with_reducible apply (h.NewStore); done)); clear h; intro h)
           | (apply stepWith e1; (focus (with_reducible apply (h.NewTerm); done)); clear h; intro h)
           | (apply stepWith e1; (focus (with_reducible apply (h.NewBlock); done)); clear h; intro h)
           | (apply stepWith e1; (focus (with_reducible apply (h.generateExpression); done)); clear h; intro h)
           | (apply stepWith e1; (focus (with_reducible apply (h.appendPrologue); done)); clear h; intro h)
           | (apply stepWith e1; (focus (with_reducible apply (h.appendEpilogue); done)); clear h; intro h)
           | (apply stepWith e1; (focus (with_reducible apply (h.generateBoundsCheck); done)); clear h; intro h)
           | (apply stepWith e1; (focus (with_reducible apply (Grows.appendElements (fun e _ => exprOK e) h); done)); clear h; intro h)
           | (apply stepWith e1; (focus (with_reducible apply (Grows.callArguments (fun e _ => exprOK e) h); done)); clear h; intro h)
           | (apply stepWith e1; (focus (with_reducible apply (Grows.printfArguments (fun e _ => exprOK e) h); done)); clear h; intro h)
           | (apply stepWith e1; (focus (with_reducible apply (Grows.arrayElements (fun e _ => exprOK e) h); done)); clear h; intro h)
           | (apply stepWith e1; (focus (with_reducible apply (h.bindLiteralParameters); done)); clear h; intro h)
           | (apply stepWith e1; (focus (with_reducible apply (Grows.generateBlockStatement (fun s _ => stmtOK s) h); done)); clear h; intro h)
           | (apply stepWith e1; (focus (with_reducible apply (h.implicitReturn); done)); clear h; intro h)
           | (apply stepWith e1; (focus (with_reducible apply (h.brIfOpen); done)); clear h; intro h)
           | (cases e1)
           | fail)
      | (split at e <;>
         try (rename_i heq
              first
                | (apply stepWith heq; (focus (with_reducible apply (hs.step ∘ ((Grows.refl _).getOrDeclare)); done)); clear hs; intro hs)
                | (apply stepWith heq; (focus (with_reducible apply (hs.step ∘ ((Grows.refl _).resolveCallee)); done)); clear hs; intro hs)
                | (apply stepWith heq; (focus (with_reducible apply (hs.step ∘ ((Grows.refl _).generateStringLiteral)); done)); clear hs; intro hs)
                | (apply stepWith heq; (focus (with_reducible apply (hs.step ∘ ((Grows.refl _).NewInst)); done)); clear hs; intro hs)
                | (apply stepWith heq; (focus (with_reducible apply (hs.step ∘ ((Grows.refl _).NewStore)); done)); clear hs; intro hs)
                | (apply stepWith heq; (focus (with_reducible apply (hs.step ∘ ((Grows.refl _).NewTerm)); done)); clear hs; intro hs)
                | (apply stepWith heq; (focus (with_reducible apply (hs.step ∘ ((Grows.refl _).NewBlock)); done)); clear hs; intro hs)
                | (apply stepWith heq; (focus (with_reducible apply (hs.step ∘ ((Grows.refl _).generateExpression)); done)); clear hs; intro hs)
                | (apply stepWith heq; (focus (with_reducible apply (hs.step ∘ ((Grows.refl _).appendPrologue)); done)); clear hs; intro hs)
                | (apply stepWith heq; (focus (with_reducible apply (hs.step ∘ ((Grows.refl _).appendEpilogue)); done)); clear hs; intro hs)
                | (apply stepWith heq; (focus (with_reducible apply (hs.step ∘ ((Grows.refl _).generateBoundsCheck)); done)); clear hs; intro hs)
                | (apply stepWith heq; (focus (with_reducible apply (hs.step ∘ (Grows.appendElements (fun e _ => exprOK e) (Grows.refl _))); done)); clear hs; intro hs)
                | (apply stepWith heq; (focus (with_reducible apply (hs.step ∘ (Grows.callArguments (fun e _ => exprOK e) (Grows.refl _))); done)); clear hs; intro hs)
                | (apply stepWith heq; (focus (with_reducible apply (hs.step ∘ (Grows.printfArguments (fun e _ => exprOK e) (Grows.refl _))); done)); clear hs; intro hs)
                | (apply stepWith heq; (focus (with_reducible apply (hs.step ∘ (Grows.arrayElements (fun e _ => exprOK e) (Grows.refl _))); done)); clear hs; intro hs)
                | (apply stepWith heq; (focus (with_reducible apply (hs.step ∘ ((Grows.refl _).bindLiteralParameters)); done)); clear hs; intro hs)
                | (apply stepWith heq; (focus (with_reducible apply (hs.step ∘ (Grows.generateBlockStatement (fun s _ => stmtOK s) (Grows.refl _))); done)); clear hs; intro hs)
                | (apply stepWith heq; (focus (with_reducible apply (hs.step ∘ ((Grows.refl _).implicitReturn)); done)); clear hs; intro hs)
                | (apply stepWith heq; (focus (with_reducible apply (hs.step ∘ ((Grows.refl _).brIfOpen)); done)); clear hs; intro hs)
                | (apply stepWith heq; (focus (with_reducible apply (h.getOrDeclare); done)); clear h; intro h)
                | (apply stepWith heq; (focus (with_reducible apply (h.resolveCallee); done)); clear h; intro h)
                | (apply stepWith heq; (focus (with_reducible apply (h.generateStringLiteral); done)); clear h; intro h)
                | (apply stepWith heq; (focus (with_reducible apply (h.NewInst); done)); clear h; intro h)
                | (apply stepWith heq; (focus (with_reducible apply (h.NewStore); done)); clear h; intro h)
                | (apply stepWith heq; (focus (with_reducible apply (h.NewTerm); done)); clear h; intro h)
                | (apply stepWith heq; (focus (with_reducible apply (h.NewBlock); done)); clear h; intro h)
                | (apply stepWith heq; (focus (with_reducible apply (h.generateExpression); done)); clear h; intro h)
                | (apply stepWith heq; (focus (with_reducible apply (h.appendPrologue); done)); clear h; intro h)
                | (apply stepWith heq; (focus (with_reducible apply (h.appendEpilogue); done)); clear h; intro h)
                | (apply stepWith heq; (focus (with_reducible apply (h.generateBoundsCheck); done)); clear h; intro h)
                | (apply stepWith heq; (focus (with_reducible apply (Grows.appendElements (fun e _ => exprOK e) h); done)); clear h; intro h)
                | (apply stepWith heq; (focus (with_reducible apply (Grows.callArguments (fun e _ => exprOK e) h); done)); clear h; intro h)
                | (apply stepWith heq; (focus (with_reducible apply (Grows.printfArguments (fun e _ => exprOK e) h); done)); clear h; intro h)
                | (apply stepWith heq; (focus (with_reducible apply (Grows.arrayElements (fun e _ => exprOK e) h); done)); clear h; intro h)
                | (apply stepWith heq; (focus (with_reducible apply (h.bindLiteralParameters); done)); clear h; intro h)
                | (apply stepWith heq; (focus (with_reducible apply (Grows.generateBlockStatement (fun s _ => stmtOK s) h); done)); clear h; intro h)
                | (apply stepWith heq; (focus (with_reducible apply (h.implicitReturn); done)); clear h; intro h)
                | (apply stepWith heq; (focus (with_reducible apply (h.brIfOpen); done)); clear h; intro h)
                | fail))
      | (cases e; first | done | exact hs.extend | exact h.report _ | fail)
      | (dsimp only at e)
      | fail)
  · rw [generateMakeCall_cons_eq] at e
    try simp only [IRGenerator.NewAlloca, IRGenerator.NewLoad, IRGenerator.NewBin, IRGenerator.NewICmp, IRGenerator.NewFCmp, IRGenerator.NewGetElementPtr, IRGenerator.funcValue, NewCall_func, IRGenerator.NewCall, IRGenerator.NewZExt, IRGenerator.NewSelect, IRGenerator.NewBr, IRGenerator.NewCondBr, IRGenerator.NewRet, IRGenerator.NewUnreachable, IRGenerator.NewFunc, IRGenerator.NewGlobalDef] at e
    repeat' (first
      | (with_reducible first
          | (revert e; apply (hs.step ∘ ((Grows.refl _).NewInst)); done)
          | (revert e; apply (hs.step ∘ ((Grows.refl _).NewStore)); done)
          | (revert e; apply (hs.step ∘ ((Grows.refl _).NewTerm)); done)
          | (revert e; apply (hs.step ∘ ((Grows.refl _).NewBlock)); done)
          | (revert e; apply (hs.step ∘ ((Grows.refl _).generateExpression)); done)
          | (revert e; apply (hs.step ∘ ((Grows.refl _).appendPrologue)); done)
          | (revert e; apply (hs.step ∘ ((Grows.refl _).appendEpilogue)); done)
          | (revert e; apply (hs.step ∘ ((Grows.refl _).generateBoundsCheck)); done)
          | (revert e; apply (hs.step ∘ (Grows.appendElements (fun e _ => exprOK e) (Grows.refl _))); done)
          | (revert e; apply (hs.step ∘ (Grows.callArguments (fun e _ => exprOK e) (Grows.refl _))); done)
          | (revert e; apply (hs.step ∘ (Grows.printfArguments (fun e _ => exprOK e) (Grows.refl _))); done)
          | (revert e; apply (hs.step ∘ (Grows.arrayElements (fun e _ => exprOK e) (Grows.refl _))); done)
          | (revert e; apply (hs.step ∘ ((Grows.refl _).bindLiteralParameters)); done)
          | (revert e; apply (hs.step ∘ (Grows.generateBlockStatement (fun s _ => stmtOK s) (Grows.refl _))); done)
          | (revert e; apply (hs.step ∘ ((Grows.refl _).implicitReturn)); done)
          | (revert e; apply (hs.step ∘ ((Grows.refl _).brIfOpen)); done)
          | (revert e; apply (hs.step ∘ ((Grows.refl _).asResult)); done)
          | (revert e; apply (hs.step ∘ ((Grows.refl _).failWith)); done)
          | (revert e; apply (hs.step ∘ ((Grows.refl _).generateIdentifier)); done)
          | (revert e; apply (hs.step ∘ ((Grows.refl _).prefixOperator)); done)
          | (revert e; apply (hs.step ∘ ((Grows.refl _).generatePostfixExpression)); done)
          | (revert e; apply (hs.step ∘ ((Grows.refl _).generateStringConcatenation)); done)
          | (revert e; apply (hs.step ∘ ((Grows.refl _).infixOperator)); done)
          | (revert e; apply (hs.step ∘ ((Grows.refl _).indexAccess)); done)
          | (revert e; apply (hs.step ∘ ((Grows.refl _).lenOrCap)); done)
          | (revert e; apply (hs.step ∘ ((Grows.refl _).makeSlice)); done)
          | (revert e; apply (hs.step ∘ ((Grows.refl _).printfNoArguments)); done)
          | (revert e; apply (hs.step ∘ ((Grows.refl _).printfCall)); done)
          | (revert e; apply (hs.step ∘ (Grows.generateLenCall (fun e _ => exprOK e) (Grows.refl _))); done)
          | (revert e; apply (hs.step ∘ (Grows.generateCapCall (fun e _ => exprOK e) (Grows.refl _))); done)
          | (revert e; apply (hs.step ∘ (Grows.generateAppendCall (fun e _ => exprOK e) (Grows.refl _))); done)
          | (revert e; apply (hs.step ∘ (Grows.generateMakeCall (fun e _ => exprOK e) (Grows.refl _))); done)
          | (revert e; apply (hs.step ∘ (Grows.generateExitCall (fun e _ => exprOK e) (Grows.refl _))); done)
          | (revert e; apply (h.asResult_nil); done)
          | (revert e; apply (h.failWith_nil); done)
          | fail)
      | (apply stepWith e; (focus (with_reducible apply (@ite_ok _ _ _ _ _ _); done)); intro e2
         clear e
         rcases e2 with ⟨_, e⟩ | ⟨_, e⟩)
      | (simp only [bind_assoc, pure_bind] at e)
      | (rw [bind_ok] at e
         obtain ⟨⟨x1, g1⟩, e1, e⟩ := e
         try dsimp only at e
         first
           | (apply stepWith e1; (focus (with_reducible apply (hs.step ∘ ((Grows.refl _).NewInst)); done)); clear hs; intro hs)
           | (apply stepWith e1; (focus (with_reducible apply (hs.step ∘ ((Grows.refl _).NewStore)); done)); clear hs; intro hs)
           | (apply stepWith e1; (focus (with_reducible apply (hs.step ∘ ((Grows.refl _).NewTerm)); done)); clear hs; intro hs)
           | (apply stepWith e1; (focus (with_reducible apply (hs.step ∘ ((Grows.refl _).NewBlock)); done)); clear hs; intro hs)
           | (apply stepWith e1; (focus (with_reducible apply (hs.step ∘ ((Grows.refl _).generateExpression)); done)); clear hs; intro hs)
           | (apply stepWith e1; (focus (with_reducible apply (hs.step ∘ ((Grows.refl _).appendPrologue)); done)); clear hs; intro hs)
           | (apply stepWith e1; (focus (with_reducible apply (hs.step ∘ ((Grows.refl _).appendEpilogue)); done)); clear hs; intro hs)
           | (apply stepWith e1; (focus (with_reducible apply (hs.step ∘ ((Grows.refl _).generateBoundsCheck)); done)); clear hs; intro hs)
           | (apply stepWith e1; (focus (with_reducible apply (hs.step ∘ (Grows.appendElements (fun e _ => exprOK e) (Grows.refl _))); done)); clear hs; intro hs)
           | (apply stepWith e1; (focus (with_reducible apply (hs.step ∘ (Grows.callArguments (fun e _ => exprOK e) (Grows.refl _))); done)); clear hs; intro hs)
           | (apply stepWith e1; (focus (with_reducible apply (hs.step ∘ (Grows.printfArguments (fun e _ => exprOK e) (Grows.refl _))); done)); clear hs; intro hs)
           | (apply stepWith e1; (focus (with_reducible apply (hs.step ∘ (Grows.arrayElements (fun e _ => exprOK e) (Grows.refl _))); done)); clear hs; intro hs)
           | (apply stepWith e1; (focus (with_reducible apply (hs.step ∘ ((Grows.refl _).bindLiteralParameters)); done)); clear hs; intro hs)
           | (apply stepWith e1; (focus (with_reducible apply (hs.step ∘ (Grows.generateBlockStatement (fun s _ => stmtOK s) (Grows.refl _))); done)); clear hs; intro hs)
           | (apply stepWith e1; (focus (with_reducible apply (hs.step ∘ ((Grows.refl _).implicitReturn)); done)); clear hs; intro hs)
           | (apply stepWith e1; (focus (with_reducible apply (hs.step ∘ ((Grows.refl _).brIfOpen)); done)); clear hs; intro hs)
           | (apply stepWith e1; (focus (with_reducible apply (h.NewInst); done)); clear h; intro h)
           | (apply stepWith e1; (focus (with_reducible apply (h.NewStore); done)); clear h; intro h)
           | (apply stepWith e1; (focus (with_reducible apply (h.NewTerm); done)); clear h; intro h)
           | (apply stepWith e1; (focus (with_reducible apply (h.NewBlock); done)); clear h; intro h)
           | (apply stepWith e1; (focus (with_reducible apply (h.generateExpression); done)); clear h; intro h)
           | (apply stepWith e1; (focus (with_reducible apply (h.appendPrologue); done)); clear h; intro h)
           | (apply stepWith e1; (focus (with_reducible apply (h.appendEpilogue); done)); clear h; intro h)
           | (apply stepWith e1; (focus (with_reducible apply (h.generateBoundsCheck); done)); clear h; intro h)
           | (apply stepWith e1; (focus (with_reducible apply (Grows.appendElements (fun e _ => exprOK e) h); done)); clear h; intro h)
           | (apply stepWith e1; (focus (with_reducible apply (Grows.callArguments (fun e _ => exprOK e) h); done)); clear h; intro h)
           | (apply stepWith e1; (focus (with_reducible apply (Grows.printfArguments (fun e _ => exprOK e) h); done)); clear h; intro h)
           | (apply stepWith e1; (focus (with_reducible apply (Grows.arrayElements (fun e _ => exprOK e) h); done)); clear h; intro h)
           | (apply stepWith e1; (focus (with_reducible apply (h.bindLiteralParameters); done)); clear h; intro h)
           | (apply stepWith e1; (focus (with_reducible apply (Grows.generateBlockStatement (fun s _ => stmtOK s) h); done)); clear h; intro h)
           | (apply stepWith e1; (focus (with_reducible apply (h.implicitReturn); done)); clear h; intro h)
           | (apply stepWith e1; (focus (with_reducible apply (h.brIfOpen); done)); clear h; intro h)
           | (cases e1)
           | fail)
      | (split at e <;>
         try (rename_i heq
              first
                | (apply stepWith heq; (focus (with_reducible apply (hs.step ∘ ((Grows.refl _).getOrDeclare)); done)); clear hs; intro hs)
                | (apply stepWith heq; (focus (with_reducible apply (hs.step ∘ ((Grows.refl _).resolveCallee)); done)); clear hs; intro hs)
                | (apply stepWith heq; (focus (with_reducible apply (hs.step ∘ ((Grows.refl _).generateStringLiteral)); done)); clear hs; intro hs)
                | (apply stepWith heq; (focus (with_reducible apply (hs.step ∘ ((Grows.refl _).NewInst)); done)); clear hs; intro hs)
                | (apply stepWith heq; (focus (with_reducible apply (hs.step ∘ ((Grows.refl _).NewStore)); done)); clear hs; intro hs)
                | (apply stepWith heq; (focus (with_reducible apply (hs.step ∘ ((Grows.refl _).NewTerm)); done)); clear hs; intro hs)
                | (apply stepWith heq; (focus (with_reducible apply (hs.step ∘ ((Grows.refl _).NewBlock)); done)); clear hs; intro hs)
                | (apply stepWith heq; (focus (with_reducible apply (hs.step ∘ ((Grows.refl _).generateExpression)); done)); clear hs; intro hs)
                | (apply stepWith heq; (focus (with_reducible apply (hs.step ∘ ((Grows.refl _).appendPrologue)); done)); clear hs; intro hs)
                | (apply stepWith heq; (focus (with_reducible apply (hs.step ∘ ((Grows.refl _).appendEpilogue)); done)); clear hs; intro hs)
                | (apply stepWith heq; (focus (with_reducible apply (hs.step ∘ ((Grows.refl _).generateBoundsCheck)); done)); clear hs; intro hs)
                | (apply stepWith heq; (focus (with_reducible apply (hs.step ∘ (Grows.appendElements (fun e _ => exprOK e) (Grows.refl _))); done)); clear hs; intro hs)
                | (apply stepWith heq; (focus (with_reducible apply (hs.step ∘ (Grows.callArguments (fun e _ => exprOK e) (Grows.refl _))); done)); clear hs; intro hs)
                | (apply stepWith heq; (focus (with_reducible apply (hs.step ∘ (Grows.printfArguments (fun e _ => exprOK e) (Grows.refl _))); done)); clear hs; intro hs)
                | (apply stepWith heq; (focus (with_reducible apply (hs.step ∘ (Grows.arrayElements (fun e _ => exprOK e) (Grows.refl _))); done)); clear hs; intro hs)
                | (apply stepWith heq; (focus (with_reducible apply (hs.step ∘ ((Grows.refl _).bindLiteralParameters)); done)); clear hs; intro hs)
                | (apply stepWith heq; (focus (with_reducible apply (hs.step ∘ (Grows.generateBlockStatement (fun s _ => stmtOK s) (Grows.refl _))); done)); clear hs; intro hs)
                | (apply stepWith heq; (focus (with_reducible apply (hs.step ∘ ((Grows.refl _).implicitReturn)); done)); clear hs; intro hs)
                | (apply stepWith heq; (focus (with_reducible apply (hs.step ∘ ((Grows.refl _).brIfOpen)); done)); clear hs; intro hs)
                | (apply stepWith heq; (focus (with_reducible apply (h.getOrDeclare); done)); clear h; intro h)
                | (apply stepWith heq; (focus (with_reducible apply (h.resolveCallee); done)); clear h; intro h)
                | (apply stepWith heq; (focus (with_reducible apply (h.generateStringLiteral); done)); clear h; intro h)
                | (apply stepWith heq; (focus (with_reducible apply (h.NewInst); done)); clear h; intro h)
                | (apply stepWith heq; (focus (with_reducible apply (h.NewStore); done)); clear h; intro h)
                | (apply stepWith heq; (focus (with_reducible apply (h.NewTerm); done)); clear h; intro h)
                | (apply stepWith heq; (focus (with_reducible apply (h.NewBlock); done)); clear h; intro h)
                | (apply stepWith heq; (focus (with_reducible apply (h.generateExpression); done)); clear h; intro h)
                | (apply stepWith heq; (focus (with_reducible apply (h.appendPrologue); done)); clear h; intro h)
                | (apply stepWith heq; (focus (with_reducible apply (h.appendEpilogue); done)); clear h; intro h)
                | (apply stepWith heq; (focus (with_reducible apply (h.generateBoundsCheck); done)); clear h; intro h)
                | (apply stepWith heq; (focus (with_reducible apply (Grows.appendElements (fun e _ => exprOK e) h); done)); clear h; intro h)
                | (apply stepWith heq; (focus (with_reducible apply (Grows.callArguments (fun e _ => exprOK e) h); done)); clear h; intro h)
                | (apply stepWith heq; (focus (with_reducible apply (Grows.printfArguments (fun e _ => exprOK e) h); done)); clear h; intro h)
                | (apply stepWith heq; (focus (with_reducible apply (Grows.arrayElements (fun e _ => exprOK e) h); done)); clear h; intro h)
                | (apply stepWith heq; (focus (with_reducible apply (h.bindLiteralParameters); done)); clear h; intro h)
                | (apply stepWith heq; (focus (with_reducible apply (Grows.generateBlockStatement (fun s _ => stmtOK s) h); done)); clear h; intro h)
                | (apply stepWith heq; (focus (with_reducible apply (h.implicitReturn); done)); clear h; intro h)
                | (apply stepWith heq; (focus (with_reducible apply (h.brIfOpen); done)); clear h; intro h)
                | fail))
      | (cases e; first | done | exact hs.extend | exact h.report _ | fail)
      | (dsimp only at e)
      | fail)
  · rw [generateMakeCall_cons_eq] at e
    try simp only [IRGenerator.NewAlloca, IRGenerator.NewLoad, IRGenerator.NewBin, IRGenerator.NewICmp, IRGenerator.NewFCmp, IRGenerator.NewGetElementPtr, IRGenerator.funcValue, NewCall_func, IRGenerator.NewCall, IRGenerator.NewZExt, IRGenerator.NewSelect, IRGenerator.NewBr, IRGenerator.NewCondBr, IRGenerator.NewRet, IRGenerator.NewUnreachable, IRGenerator.NewFunc, IRGenerator.NewGlobalDef] at e
    repeat' (first
      | (with_reducible first
          | (revert e; apply (hs.step ∘ ((Grows.refl _).NewInst)); done)
          | (revert e; apply (hs.step ∘ ((Grows.refl _).NewStore)); done)
          | (revert e; apply (hs.step ∘ ((Grows.refl _).NewTerm)); done)
          | (revert e; apply (hs.step ∘ ((Grows.refl _).NewBlock)); done)
          | (revert e; apply (hs.step ∘ ((Grows.refl _).generateExpression)); done)
          | (revert e; apply (hs.step ∘ ((Grows.refl _).appendPrologue)); done)
          | (revert e; apply (hs.step ∘ ((Grows.refl _).appendEpilogue)); done)
          | (revert e; apply (hs.step ∘ ((Grows.refl _).generateBoundsCheck)); done)
          | (revert e; apply (hs.step ∘ (Grows.appendElements (fun e _ => exprOK e) (Grows.refl _))); done)
          | (revert e; apply (hs.step ∘ (Grows.callArguments (fun e _ => exprOK e) (Grows.refl _))); done)
          | (revert e; apply (hs.step ∘ (Grows.printfArguments (fun e _ => exprOK e) (Grows.refl _))); done)
          | (revert e; apply (hs.step ∘ (Grows.arrayElements (fun e _ => exprOK e) (Grows.refl _))); done)
          | (revert e; apply (hs.step ∘ ((Grows.refl _).bindLiteralParameters)); done)
          | (revert e; apply (hs.step ∘ (Grows.generateBlockStatement (fun s _ => stmtOK s) (Grows.refl _))); done)
          | (revert e; apply (hs.step ∘ ((Grows.refl _).implicitReturn)); done)
          | (revert e; apply (hs.step ∘ ((Grows.refl _).brIfOpen)); done)
          | (revert e; apply (hs.step ∘ ((Grows.refl _).asResult)); done)
          | (revert e; apply (hs.step ∘ ((Grows.refl _).failWith)); done)
          | (revert e; apply (hs.step ∘ ((Grows.refl _).generateIdentifier)); done)
          | (revert e; apply (hs.step ∘ ((Grows.refl _).prefixOperator)); done)
          | (revert e; apply (hs.step ∘ ((Grows.refl _).generatePostfixExpression)); done)
          | (revert e; apply (hs.step ∘ ((Grows.refl _).generateStringConcatenation)); done)
          | (revert e; apply (hs.step ∘ ((Grows.refl _).infixOperator)); done)
          | (revert e; apply (hs.step ∘ ((Grows.refl _).indexAccess)); done)
          | (revert e; apply (hs.step ∘ ((Grows.refl _).lenOrCap)); done)
          | (revert e; apply (hs.step ∘ ((Grows.refl _).makeSlice)); done)
          | (revert e; apply (hs.step ∘ ((Grows.refl _).printfNoArguments)); done)
          | (revert e; apply (hs.step ∘ ((Grows.refl _).printfCall)); done)
          | (revert e; apply (hs.step ∘ (Grows.generateLenCall (fun e _ => exprOK e) (Grows.refl _))); done)
          | (revert e; apply (hs.step ∘ (Grows.generateCapCall (fun e _ => exprOK e) (Grows.refl _))); done)
          | (revert e; apply (hs.step ∘ (Grows.generateAppendCall (fun e _ => exprOK e) (Grows.refl _))); done)
          | (revert e; apply (hs.step ∘ (Grows.generateMakeCall (fun e _ => exprOK e) (Grows.refl _))); done)
          | (revert e; apply (hs.step ∘ (Grows.generateExitCall (fun e _ => exprOK e) (Grows.refl _))); done)
          | (revert e; apply (h.asResult_nil); done)
          | (revert e; apply (h.failWith_nil); done)
          | (revert e; apply (h.makeSlice_nil); done)
          | fail)
      | (apply stepWith e; (focus (with_reducible apply (@ite_ok _ _ _ _ _ _); done)); intro e2
         clear e
         rcases e2 with ⟨_, e⟩ | ⟨_, e⟩)
      | (simp only [bind_assoc, pure_bind] at e)
      | (rw [bind_ok] at e
         obtain ⟨⟨x1, g1⟩, e1, e⟩ := e
         try dsimp only at e
         first
           | (apply stepWith e1; (focus (with_reducible apply (hs.step ∘ ((Grows.refl _).NewInst)); done)); clear hs; intro hs)
           | (apply stepWith e1; (focus (with_reducible apply (hs.step ∘ ((Grows.refl _).NewStore)); done)); clear hs; intro hs)
           | (apply stepWith e1; (focus (with_reducible apply (hs.step ∘ ((Grows.refl _).NewTerm)); done)); clear hs; intro hs)
           | (apply stepWith e1; (focus (with_reducible apply (hs.step ∘ ((Grows.refl _).NewBlock)); done)); clear hs; intro hs)
           | (apply stepWith e1; (focus (with_reducible apply (hs.step ∘ ((Grows.refl _).generateExpression)); done)); clear hs; intro hs)
           | (apply stepWith e1; (focus (with_reducible apply (hs.step ∘ ((Grows.refl _).appendPrologue)); done)); clear hs; intro hs)
           | (apply stepWith e1; (focus (with_reducible apply (hs.step ∘ ((Grows.refl _).appendEpilogue)); done)); clear hs; intro hs)
           | (apply stepWith e1; (focus (with_reducible apply (hs.step ∘ ((Grows.refl _).generateBoundsCheck)); done)); clear hs; intro hs)
           | (apply stepWith e1; (focus (with_reducible apply (hs.step ∘ (Grows.appendElements (fun e _ => exprOK e) (Grows.refl _))); done)); clear hs; intro hs)
           | (apply stepWith e1; (focus (with_reducible apply (hs.step ∘ (Grows.callArguments (fun e _ => exprOK e) (Grows.refl _))); done)); clear hs; intro hs)
           | (apply stepWith e1; (focus (with_reducible apply (hs.step ∘ (Grows.printfArguments (fun e _ => exprOK e) (Grows.refl _))); done)); clear hs; intro hs)
           | (apply stepWith e1; (focus (with_reducible apply (hs.step ∘ (Grows.arrayElements (fun e _ => exprOK e) (Grows.refl _))); done)); clear hs; intro hs)
           | (apply stepWith e1; (focus (with_reducible apply (hs.step ∘ ((Grows.refl _).bindLiteralParameters)); done)); clear hs; intro hs)
           | (apply stepWith e1; (focus (with_reducible apply (hs.step ∘ (Grows.generateBlockStatement (fun s _ => stmtOK s) (Grows.refl _))); done)); clear hs; intro hs)
           | (apply stepWith e1; (focus (with_reducible apply (hs.step ∘ ((Grows.refl _).implicitReturn)); done)); clear hs; intro hs)
           | (apply stepWith e1; (focus (with_reducible apply (hs.step ∘ ((Grows.refl _).brIfOpen)); done)); clear hs; intro hs)
           | (apply stepWith e1; (focus (with_reducible apply (h.NewInst); done)); clear h; intro h)
           | (apply stepWith e1; (focus (with_reducible apply (h.NewStore); done)); clear h; intro h)
           | (apply stepWith e1; (focus (with_reducible apply (h.NewTerm); done)); clear h; intro h)
           | (apply stepWith e1; (focus (with_reducible apply (h.NewBlock); done)); clear h; intro h)
           | (apply stepWith e1; (focus (with_reducible apply (h.generateExpression); done)); clear h; intro h)
           | (apply stepWith e1; (focus (with_reducible apply (h.appendPrologue); done)); clear h; intro h)
           | (apply stepWith e1; (focus (with_reducible apply (h.appendEpilogue); done)); clear h; intro h)
           | (apply stepWith e1; (focus (with_reducible apply (h.generateBoundsCheck); done)); clear h; intro h)
           | (apply stepWith e1; (focus (with_reducible apply (Grows.appendElements (fun e _ => exprOK e) h); done)); clear h; intro h)
           | (apply stepWith e1; (focus (with_reducible apply (Grows.callArguments (fun e _ => exprOK e) h); done)); clear h; intro h)
           | (apply stepWith e1; (focus (with_reducible apply (Grows.printfArguments (fun e _ => exprOK e) h); done)); clear h; intro h)
           | (apply stepWith e1; (focus (with_reducible apply (Grows.arrayElements (fun e _ => exprOK e) h); done)); clear h; intro h)
           | (apply stepWith e1; (focus (with_reducible apply (h.bindLiteralParameters); done)); clear h; intro h)
           | (apply stepWith e1; (focus (with_reducible apply (Grows.generateBlockStatement (fun s _ => stmtOK s) h); done)); clear h; intro h)
           | (apply stepWith e1; (focus (with_reducible apply (h.implicitReturn); done)); clear h; intro h)
           | (apply stepWith e1; (focus (with_reducible apply (h.brIfOpen); done)); clear h; intro h)
           | (cases e1)
           | fail)
      | (split at e <;>
         try (rename_i heq
              first
                | (apply stepWith heq; (focus (with_reducible apply (hs.step ∘ ((Grows.refl _).getOrDeclare)); done)); clear hs; intro hs)
                | (apply stepWith heq; (focus (with_reducible apply (hs.step ∘ ((Grows.refl _).resolveCallee)); done)); clear hs; intro hs)
                | (apply stepWith heq; (focus (with_reducible apply (hs.step ∘ ((Grows.refl _).generateStringLiteral)); done)); clear hs; intro hs)
                | (apply stepWith heq; (focus (with_reducible apply (hs.step ∘ ((Grows.refl _).NewInst)); done)); clear hs; intro hs)
                | (apply stepWith heq; (focus (with_reducible apply (hs.step ∘ ((Grows.refl _).NewStore)); done)); clear hs; intro hs)
                | (apply stepWith heq; (focus (with_reducible apply (hs.step ∘ ((Grows.refl _).NewTerm)); done)); clear hs; intro hs)
                | (apply stepWith heq; (focus (with_reducible apply (hs.step ∘ ((Grows.refl _).NewBlock)); done)); clear hs; intro hs)
                | (apply stepWith heq; (focus (with_reducible apply (hs.step ∘ ((Grows.refl _).generateExpression)); done)); clear hs; intro hs)
                | (apply stepWith heq; (focus (with_reducible apply (hs.step ∘ ((Grows.refl _).appendPrologue)); done)); clear hs; intro hs)
                | (apply stepWith heq; (focus (with_reducible apply (hs.step ∘ ((Grows.refl _).appendEpilogue)); done)); clear hs; intro hs)
                | (apply stepWith heq; (focus (with_reducible apply (hs.step ∘ ((Grows.refl _).generateBoundsCheck)); done)); clear hs; intro hs)
                | (apply stepWith heq; (focus (with_reducible apply (hs.step ∘ (Grows.appendElements (fun e _ => exprOK e) (Grows.refl _))); done)); clear hs; intro hs)
                | (apply stepWith heq; (focus (with_reducible apply (hs.step ∘ (Grows.callArguments (fun e _ => exprOK e) (Grows.refl _))); done)); clear hs; intro hs)
                | (apply stepWith heq; (focus (with_reducible apply (hs.step ∘ (Grows.printfArguments (fun e _ => exprOK e) (Grows.refl _))); done)); clear hs; intro hs)
                | (apply stepWith heq; (focus (with_reducible apply (hs.step ∘ (Grows.arrayElements (fun e _ => exprOK e) (Grows.refl _))); done)); clear hs; intro hs)
                | (apply stepWith heq; (focus (with_reducible apply (hs.step ∘ ((Grows.refl _).bindLiteralParameters)); done)); clear hs; intro hs)
                | (apply stepWith heq; (focus (with_reducible apply (hs.step ∘ (Grows.generateBlockStatement (fun s _ => stmtOK s) (Grows.refl _))); done)); clear hs; intro hs)
                | (apply stepWith heq; (focus (with_reducible apply (hs.step ∘ ((Grows.refl _).implicitReturn)); done)); clear hs; intro hs)
                | (apply stepWith heq; (focus (with_reducible apply (hs.step ∘ ((Grows.refl _).brIfOpen)); done)); clear hs; intro hs)
                | (apply stepWith heq; (focus (with_reducible apply (h.getOrDeclare); done)); clear h; intro h)
                | (apply stepWith heq; (focus (with_reducible apply (h.resolveCallee); done)); clear h; intro h)
                | (apply stepWith heq; (focus (with_reducible apply (h.generateStringLiteral); done)); clear h; intro h)
                | (apply stepWith heq; (focus (with_reducible apply (h.NewInst); done)); clear h; intro h)
                | (apply stepWith heq; (focus (with_reducible apply (h.NewStore); done)); clear h; intro h)
                | (apply stepWith heq; (focus (with_reducible apply (h.NewTerm); done)); clear h; intro h)
                | (apply stepWith heq; (focus (with_reducible apply (h.NewBlock); done)); clear h; intro h)
                | (apply stepWith heq; (focus (with_reducible apply (h.generateExpression); done)); clear h; intro h)
                | (apply stepWith heq; (focus (with_reducible apply (h.appendPrologue); done)); clear h; intro h)
                | (apply stepWith heq; (focus (with_reducible apply (h.appendEpilogue); done)); clear h; intro h)
                | (apply stepWith heq; (focus (with_reducible apply (h.generateBoundsCheck); done)); clear h; intro h)
                | (apply stepWith heq; (focus (with_reducible apply (Grows.appendElements (fun e _ => exprOK e) h); done)); clear h; intro h)
                | (apply stepWith heq; (focus (with_reducible apply (Grows.callArguments (fun e _ => exprOK e) h); done)); clear h; intro h)
                | (apply stepWith heq; (focus (with_reducible apply (Grows.printfArguments (fun e _ => exprOK e) h); done)); clear h; intro h)
                | (apply stepWith heq; (focus (with_reducible apply (Grows.arrayElements (fun e _ => exprOK e) h); done)); clear h; intro h)
                | (apply stepWith heq; (focus (with_reducible apply (h.bindLiteralParameters); done)); clear h; intro h)
                | (apply stepWith heq; (focus (with_reducible apply (Grows.generateBlockStatement (fun s _ => stmtOK s) h); done)); clear h; intro h)
                | (apply stepWith heq; (focus (with_reducible apply (h.implicitReturn); done)); clear h; intro h)
                | (apply stepWith heq; (focus (with_reducible apply (h.brIfOpen); done)); clear h; intro h)
                | fail))
      | (cases e; first | done | exact hs.extend | exact h.report _ | fail)
      | (dsimp only at e)
      | fail)
  · rw [generateMakeCall_cons_eq] at e
    try simp only [IRGenerator.NewAlloca, IRGenerator.NewLoad, IRGenerator.NewBin, IRGenerator.NewICmp, IRGenerator.NewFCmp, IRGenerator.NewGetElementPtr, IRGenerator.funcValue, NewCall_func, IRGenerator.NewCall, IRGenerator.NewZExt, IRGenerator.NewSelect, IRGenerator.NewBr, IRGenerator.NewCondBr, IRGenerator.NewRet, IRGenerator.NewUnreachable, IRGenerator.NewFunc, IRGenerator.NewGlobalDef] at e
    repeat' (first
      | (with_reducible first
          | (revert e; apply (hs.step ∘ ((Grows.refl _).NewInst)); done)
          | (revert e; apply (hs.step ∘ ((Grows.refl _).NewStore)); done)
          | (revert e; apply (hs.step ∘ ((Grows.refl _).NewTerm)); done)
          | (revert e; apply (hs.step ∘ ((Grows.refl _).NewBlock)); done)
          | (revert e; apply (hs.step ∘ ((Grows.refl _).generateExpression)); done)
          | (revert e; apply (hs.step ∘ ((Grows.refl _).appendPrologue)); done)
          | (revert e; apply (hs.step ∘ ((Grows.refl _).appendEpilogue)); done)
          | (revert e; apply (hs.step ∘ ((Grows.refl _).generateBoundsCheck)); done)
          | (revert e; apply (hs.step ∘ (Grows.appendElements (fun e _ => exprOK e) (Grows.refl _))); done)
          | (revert e; apply (hs.step ∘ (Grows.callArguments (fun e _ => exprOK e) (Grows.refl _))); done)
          | (revert e; apply (hs.step ∘ (Grows.printfArguments (fun e _ => exprOK e) (Grows.refl _))); done)
          | (revert e; apply (hs.step ∘ (Grows.arrayElements (fun e _ => exprOK e) (Grows.refl _))); done)
          | (revert e; apply (hs.step ∘ ((Grows.refl _).bindLiteralParameters)); done)
          | (revert e; apply (hs.step ∘ (Grows.generateBlockStatement (fun s _ => stmtOK s) (Grows.refl _))); done)
          | (revert e; apply (hs.step ∘ ((Grows.refl _).implicitReturn)); done)
          | (revert e; apply (hs.step ∘ ((Grows.refl _).brIfOpen)); done)
          | (revert e; apply (hs.step ∘ ((Grows.refl _).asResult)); done)
          | (revert e; apply (hs.step ∘ ((Grows.refl _).failWith)); done)
          | (revert e; apply (hs.step ∘ ((Grows.refl _).generateIdentifier)); done)
          | (revert e; apply (hs.step ∘ ((Grows.refl _).prefixOperator)); done)
          | (revert e; apply (hs.step ∘ ((Grows.refl _).generatePostfixExpression)); done)
          | (revert e; apply (hs.step ∘ ((Grows.refl _).generateStringConcatenation)); done)
          | (revert e; apply (hs.step ∘ ((Grows.refl _).infixOperator)); done)
          | (revert e; apply (hs.step ∘ ((Grows.refl _).indexAccess)); done)
          | (revert e; apply (hs.step ∘ ((Grows.refl _).lenOrCap)); done)
          | (revert e; apply (hs.step ∘ ((Grows.refl _).makeSlice)); done)
          | (revert e; apply (hs.step ∘ ((Grows.refl _).printfNoArguments)); done)
          | (revert e; apply (hs.step ∘ ((Grows.refl _).printfCall)); done)
          | (revert e; apply (hs.step ∘ (Grows.generateLenCall (fun e _ => exprOK e) (Grows.refl _))); done)
          | (revert e; apply (hs.step ∘ (Grows.generateCapCall (fun e _ => exprOK e) (Grows.refl _))); done)
          | (revert e; apply (hs.step ∘ (Grows.generateAppendCall (fun e _ => exprOK e) (Grows.refl _))); done)
          | (revert e; apply (hs.step ∘ (Grows.generateMakeCall (fun e _ => exprOK e) (Grows.refl _))); done)
          | (revert e; apply (hs.step ∘ (Grows.generateExitCall (fun e _ => exprOK e) (Grows.refl _))); done)
          | (revert e; apply (h.asResult_nil); done)
          | (revert e; apply (h.failWith_nil); done)
          | (revert e; apply (h.makeSlice_nil); done)
          | fail)
      | (apply stepWith e; (focus (with_reducible apply (@ite_ok _ _ _ _ _ _); done)); intro e2
         clear e
         rcases e2 with ⟨_, e⟩ | ⟨_, e⟩)
      | (simp only [bind_assoc, pure_bind] at e)
      | (rw [bind_ok] at e
         obtain ⟨⟨x1, g1⟩, e1, e⟩ := e
         try dsimp only at e
         first
           | (apply stepWith e1; (focus (with_reducible apply (hs.step ∘ ((Grows.refl _).NewInst)); done)); clear hs; intro hs)
           | (apply stepWith e1; (focus (with_reducible apply (hs.step ∘ ((Grows.refl _).NewStore)); done)); clear hs; intro hs)
           | (apply stepWith e1; (focus (with_reducible apply (hs.step ∘ ((Grows.refl _).NewTerm)); done)); clear hs; intro hs)
           | (apply stepWith e1; (focus (with_reducible apply (hs.step ∘ ((Grows.refl _).NewBlock)); done)); clear hs; intro hs)
           | (apply stepWith e1; (focus (with_reducible apply (hs.step ∘ ((Grows.refl _).generateExpression)); done)); clear hs; intro hs)
           | (apply stepWith e1; (focus (with_reducible apply (hs.step ∘ ((Grows.refl _).appendPrologue)); done)); clear hs; intro hs)
           | (apply stepWith e1; (focus (with_reducible apply (hs.step ∘ ((Grows.refl _).appendEpilogue)); done)); clear hs; intro hs)
           | (apply stepWith e1; (focus (with_reducible apply (hs.step ∘ ((Grows.refl _).generateBoundsCheck)); done)); clear hs; intro hs)
           | (apply stepWith e1; (focus (with_reducible apply (hs.step ∘ (Grows.appendElements (fun e _ => exprOK e) (Grows.refl _))); done)); clear hs; intro hs)
           | (apply stepWith e1; (focus (with_reducible apply (hs.step ∘ (Grows.callArguments (fun e _ => exprOK e) (Grows.refl _))); done)); clear hs; intro hs)
           | (apply stepWith e1; (focus (with_reducible apply (hs.step ∘ (Grows.printfArguments (fun e _ => exprOK e) (Grows.refl _))); done)); clear hs; intro hs)
           | (apply stepWith e1; (focus (with_reducible apply (hs.step ∘ (Grows.arrayElements (fun e _ => exprOK e) (Grows.refl _))); done)); clear hs; intro hs)
           | (apply stepWith e1; (focus (with_reducible apply (hs.step ∘ ((Grows.refl _).bindLiteralParameters)); done)); clear hs; intro hs)
           | (apply stepWith e1; (focus (with_reducible apply (hs.step ∘ (Grows.generateBlockStatement (fun s _ => stmtOK s) (Grows.refl _))); done)); clear hs; intro hs)
           | (apply stepWith e1; (focus (with_reducible apply (hs.step ∘ ((Grows.refl _).implicitReturn)); done)); clear hs; intro hs)
           | (apply stepWith e1; (focus (with_reducible apply (hs.step ∘ ((Grows.refl _).brIfOpen)); done)); clear hs; intro hs)
           | (apply stepWith e1; (focus (with_reducible apply (h.NewInst); done)); clear h; intro h)
           | (apply stepWith e1; (focus (with_reducible apply (h.NewStore); done)); clear h; intro h)
           | (apply stepWith e1; (focus (with_reducible apply (h.NewTerm); done)); clear h; intro h)
           | (apply stepWith e1; (focus (with_reducible apply (h.NewBlock); done)); clear h; intro h)
           | (apply stepWith e1; (focus (with_reducible apply (h.generateExpression); done)); clear h; intro h)
           | (apply stepWith e1; (focus (with_reducible apply (h.appendPrologue); done)); clear h; intro h)
           | (apply stepWith e1; (focus (with_reducible apply (h.appendEpilogue); done)); clear h; intro h)
           | (apply stepWith e1; (focus (with_reducible apply (h.generateBoundsCheck); done)); clear h; intro h)
           | (apply stepWith e1; (focus (with_reducible apply (Grows.appendElements (fun e _ => exprOK e) h); done)); clear h; intro h)
           | (apply stepWith e1; (focus (with_reducible apply (Grows.callArguments (fun e _ => exprOK e) h); done)); clear h; intro h)
           | (apply stepWith e1; (focus (with_reducible apply (Grows.printfArguments (fun e _ => exprOK e) h); done)); clear h; intro h)
           | (apply stepWith e1; (focus (with_reducible apply (Grows.arrayElements (fun e _ => exprOK e) h); done)); clear h; intro h)
           | (apply stepWith e1; (focus (with_reducible apply (h.bindLiteralParameters); done)); clear h; intro h)
           | (apply stepWith e1; (focus (with_reducible apply (Grows.generateBlockStatement (fun s _ => stmtOK s) h); done)); clear h; intro h)
           | (apply stepWith e1; (focus (with_reducible apply (h.implicitReturn); done)); clear h; intro h)
           | (apply stepWith e1; (focus (with_reducible apply (h.brIfOpen); done)); clear h; intro h)
           | (cases e1)
           | fail)
      | (split at e <;>
         try (rename_i heq
              first
                | (apply stepWith heq; (focus (with_reducible apply (hs.step ∘ ((Grows.refl _).getOrDeclare)); done)); clear hs; intro hs)
                | (apply stepWith heq; (focus (with_reducible apply (hs.step ∘ ((Grows.refl _).resolveCallee)); done)); clear hs; intro hs)
                | (apply stepWith heq; (focus (with_reducible apply (hs.step ∘ ((Grows.refl _).generateStringLiteral)); done)); clear hs; intro hs)
                | (apply stepWith heq; (focus (with_reducible apply (hs.step ∘ ((Grows.refl _).NewInst)); done)); clear hs; intro hs)
                | (apply stepWith heq; (focus (with_reducible apply (hs.step ∘ ((Grows.refl _).NewStore)); done)); clear hs; intro hs)
                | (apply stepWith heq; (focus (with_reducible apply (hs.step ∘ ((Grows.refl _).NewTerm)); done)); clear hs; intro hs)
                | (apply stepWith heq; (focus (with_reducible apply (hs.step ∘ ((Grows.refl _).NewBlock)); done)); clear hs; intro hs)
                | (apply stepWith heq; (focus (with_reducible apply (hs.step ∘ ((Grows.refl _).generateExpression)); done)); clear hs; intro hs)
                | (apply stepWith heq; (focus (with_reducible apply (hs.step ∘ ((Grows.refl _).appendPrologue)); done)); clear hs; intro hs)
                | (apply stepWith heq; (focus (with_reducible apply (hs.step ∘ ((Grows.refl _).appendEpilogue)); done)); clear hs; intro hs)
                | (apply stepWith heq; (focus (with_reducible apply (hs.step ∘ ((Grows.refl _).generateBoundsCheck)); done)); clear hs; intro hs)
                | (apply stepWith heq; (focus (with_reducible apply (hs.step ∘ (Grows.appendElements (fun e _ => exprOK e) (Grows.refl _))); done)); clear hs; intro hs)
                | (apply stepWith heq; (focus (with_reducible apply (hs.step ∘ (Grows.callArguments (fun e _ => exprOK e) (Grows.refl _))); done)); clear hs; intro hs)
                | (apply stepWith heq; (focus (with_reducible apply (hs.step ∘ (Grows.printfArguments (fun e _ => exprOK e) (Grows.refl _))); done)); clear hs; intro hs)
                | (apply stepWith heq; (focus (with_reducible apply (hs.step ∘ (Grows.arrayElements (fun e _ => exprOK e) (Grows.refl _))); done)); clear hs; intro hs)
                | (apply stepWith heq; (focus (with_reducible apply (hs.step ∘ ((Grows.refl _).bindLiteralParameters)); done)); clear hs; intro hs)
                | (apply stepWith heq; (focus (with_reducible apply (hs.step ∘ (Grows.generateBlockStatement (fun s _ => stmtOK s) (Grows.refl _))); done)); clear hs; intro hs)
                | (apply stepWith heq; (focus (with_reducible apply (hs.step ∘ ((Grows.refl _).implicitReturn)); done)); clear hs; intro hs)
                | (apply stepWith heq; (focus (with_reducible apply (hs.step ∘ ((Grows.refl _).brIfOpen)); done)); clear hs; intro hs)
                | (apply stepWith heq; (focus (with_reducible apply (h.getOrDeclare); done)); clear h; intro h)
                | (apply stepWith heq; (focus (with_reducible apply (h.resolveCallee); done)); clear h; intro h)
                | (apply stepWith heq; (focus (with_reducible apply (h.generateStringLiteral); done)); clear h; intro h)
                | (apply stepWith heq; (focus (with_reducible apply (h.NewInst); done)); clear h; intro h)
                | (apply stepWith heq; (focus (with_reducible apply (h.NewStore); done)); clear h; intro h)
                | (apply stepWith heq; (focus (with_reducible apply (h.NewTerm); done)); clear h; intro h)
                | (apply stepWith heq; (focus (with_reducible apply (h.NewBlock); done)); clear h; intro h)
                | (apply stepWith heq; (focus (with_reducible apply (h.generateExpression); done)); clear h; intro h)
                | (apply stepWith heq; (focus (with_reducible apply (h.appendPrologue); done)); clear h; intro h)
                | (apply stepWith heq; (focus (with_reducible apply (h.appendEpilogue); done)); clear h; intro h)
                | (apply stepWith heq; (focus (with_reducible apply (h.generateBoundsCheck); done)); clear h; intro h)
                | (apply stepWith heq; (focus (with_reducible apply (Grows.appendElements (fun e _ => exprOK e) h); done)); clear h; intro h)
                | (apply stepWith heq; (focus (with_reducible apply (Grows.callArguments (fun e _ => exprOK e) h); done)); clear h; intro h)
                | (apply stepWith heq; (focus (with_reducible apply (Grows.printfArguments (fun e _ => exprOK e) h); done)); clear h; intro h)
                | (apply stepWith heq; (focus (with_reducible apply (Grows.arrayElements (fun e _ => exprOK e) h); done)); clear h; intro h)
                | (apply stepWith heq; (focus (with_reducible apply (h.bindLiteralParameters); done)); clear h; intro h)
                | (apply stepWith heq; (focus (with_reducible apply (Grows.generateBlockStatement (fun s _ => stmtOK s) h); done)); clear h; intro h)
                | (apply stepWith heq; (focus (with_reducible apply (h.implicitReturn); done)); clear h; intro h)
                | (apply stepWith heq; (focus (with_reducible apply (h.brIfOpen); done)); clear h; intro h)
                | fail))
      | (cases e; first | done | exact hs.extend | exact h.report _ | fail)
      | (dsimp only at e)
      | fail)

theorem Grows.generateExitCall_nil {l : List Expression}
    {a g x g' : IRGenerator} [Ext g x] (h : Grows a g)
    (e : Irgen.generateExitCall l x = .ok (none, g')) : Strict a g' := by
  replace h : Grows a x := h.ext
  rcases l with _ | ⟨a0, rest⟩
  · rw [generateExitCall_nil_eq] at e
    try simp only [IRGenerator.NewAlloca, IRGenerator.NewLoad, IRGenerator.NewBin, IRGenerator.NewICmp, IRGenerator.NewFCmp, IRGenerator.NewGetElementPtr, IRGenerator.funcValue, NewCall_func, IRGenerator.NewCall, IRGenerator.NewZExt, IRGenerator.NewSelect, IRGenerator.NewBr, IRGenerator.NewCondBr, IRGenerator.NewRet, IRGenerator.NewUnreachable, IRGenerator.NewFunc, IRGenerator.NewGlobalDef] at e
    repeat' (first
      | (with_reducible first
          | (revert e; apply (hs.step ∘ ((Grows.refl _).NewInst)); done)
          | (revert e; apply (hs.step ∘ ((Grows.refl _).NewStore)); done)
          | (revert e; apply (hs.step ∘ ((Grows.refl _).NewTerm)); done)
          | (revert e; apply (hs.step ∘ ((Grows.refl _).NewBlock)); done)
          | (revert e; apply (hs.step ∘ ((Grows.refl _).generateExpression)); done)
          | (revert e; apply (hs.step ∘ ((Grows.refl _).appendPrologue)); done)
          | (revert e; apply (hs.step ∘ ((Grows.refl _).appendEpilogue)); done)
          | (revert e; apply (hs.step ∘ ((Grows.refl _).generateBoundsCheck)); done)
          | (revert e; apply (hs.step ∘ (Grows.appendElements (fun e _ => exprOK e) (Grows.refl _))); done)
          | (revert e; apply (hs.step ∘ (Grows.callArguments (fun e _ => exprOK e) (Grows.refl _))); done)
          | (revert e; apply (hs.step ∘ (Grows.printfArguments (fun e _ => exprOK e) (Grows.refl _))); done)
          | (revert e; apply (hs.step ∘ (Grows.arrayElements (fun e _ => exprOK e) (Grows.refl _))); done)
          | (revert e; apply (hs.step ∘ ((Grows.refl _).bindLiteralParameters)); done)
          | (revert e; apply (hs.step ∘ (Grows.generateBlockStatement (fun s _ => stmtOK s) (Grows.refl _))); done)
          | (revert e; apply (hs.step ∘ ((Grows.refl _).implicitReturn)); done)
          | (revert e; apply (hs.step ∘ ((Grows.refl _).brIfOpen)); done)
          | (revert e; apply (hs.step ∘ ((Grows.refl _).asResult)); done)
          | (revert e; apply (hs.step ∘ ((Grows.refl _).failWith)); done)
          | (revert e; apply (hs.step ∘ ((Grows.refl _).generateIdentifier)); done)
          | (revert e; apply (hs.step ∘ ((Grows.refl _).prefixOperator)); done)
          | (revert e; apply (hs.step ∘ ((Grows.refl _).generatePostfixExpression)); done)
          | (revert e; apply (hs.step ∘ ((Grows.refl _).generateStringConcatenation)); done)
          | (revert e; apply (hs.step ∘ ((Grows.refl _).infixOperator)); done)
          | (revert e; apply (hs.step ∘ ((Grows.refl _).indexAccess)); done)
          | (revert e; apply (hs.step ∘ ((Grows.refl _).lenOrCap)); done)
          | (revert e; apply (hs.step ∘ ((Grows.refl _).makeSlice)); done)
          | (revert e; apply (hs.step ∘ ((Grows.refl _).printfNoArguments)); done)
          | (revert e; apply (hs.step ∘ ((Grows.refl _).printfCall)); done)
          | (revert e; apply (hs.step ∘ (Grows.generateLenCall (fun e _ => exprOK e) (Grows.refl _))); done)
          | (revert e; apply (hs.step ∘ (Grows.generateCapCall (fun e _ => exprOK e) (Grows.refl _))); done)
          | (revert e; apply (hs.step ∘ (Grows.generateAppendCall (fun e _ => exprOK e) (Grows.refl _))); done)
          | (revert e; apply (hs.step ∘ (Grows.generateMakeCall (fun e _ => exprOK e) (Grows.refl _))); done)
          | (revert e; apply (hs.step ∘ (Grows.generateExitCall (fun e _ => exprOK e) (Grows.refl _))); done)
          | (revert e; apply (h.asResult_nil); done)
          | (revert e; apply (h.failWith_nil); done)
          | fail)
      | (apply stepWith e; (focus (with_reducible apply (@ite_ok _ _ _ _ _ _); done)); intro e2
         clear e
         rcases e2 with ⟨_, e⟩ | ⟨_, e⟩)
      | (simp only [bind_assoc, pure_bind] at e)
      | (rw [bind_ok] at e
         obtain ⟨⟨x1, g1⟩, e1, e⟩ := e
         try dsimp only at e
         first
           | (apply stepWith e1; (focus (with_reducible apply (hs.step ∘ ((Grows.refl _).NewInst)); done)); clear hs; intro hs)
           | (apply stepWith e1; (focus (with_reducible apply (hs.step ∘ ((Grows.refl _).NewStore)); done)); clear hs; intro hs)
           | (apply stepWith e1; (focus (with_reducible apply (hs.step ∘ ((Grows.refl _).NewTerm)); done)); clear hs; intro hs)
           | (apply stepWith e1; (focus (with_reducible apply (hs.step ∘ ((Grows.refl _).NewBlock)); done)); clear hs; intro hs)
           | (apply stepWith e1; (focus (with_reducible apply (hs.step ∘ ((Grows.refl _).generateExpression)); done)); clear hs; intro hs)
           | (apply stepWith e1; (focus (with_reducible apply (hs.step ∘ ((Grows.refl _).appendPrologue)); done)); clear hs; intro hs)
           | (apply stepWith e1; (focus (with_reducible apply (hs.step ∘ ((Grows.refl _).appendEpilogue)); done)); clear hs; intro hs)
           | (apply stepWith e1; (focus (with_reducible apply (hs.step ∘ ((Grows.refl _).generateBoundsCheck)); done)); clear hs; intro hs)
           | (apply stepWith e1; (focus (with_reducible apply (hs.step ∘ (Grows.appendElements (fun e _ => exprOK e) (Grows.refl _))); done)); clear hs; intro hs)
           | (apply stepWith e1; (focus (with_reducible apply (hs.step ∘ (Grows.callArguments (fun e _ => exprOK e) (Grows.refl _))); done)); clear hs; intro hs)
           | (apply stepWith e1; (focus (with_reducible apply (hs.step ∘ (Grows.printfArguments (fun e _ => exprOK e) (Grows.refl _))); done)); clear hs; intro hs)
           | (apply stepWith e1; (focus (with_reducible apply (hs.step ∘ (Grows.arrayElements (fun e _ => exprOK e) (Grows.refl _))); done)); clear hs; intro hs)
           | (apply stepWith e1; (focus (with_reducible apply (hs.step ∘ ((Grows.refl _).bindLiteralParameters)); done)); clear hs; intro hs)
           | (apply stepWith e1; (focus (with_reducible apply (hs.step ∘ (Grows.generateBlockStatement (fun s _ => stmtOK s) (Grows.refl _))); done)); clear hs; intro hs)
           | (apply stepWith e1; (focus (with_reducible apply (hs.step ∘ ((Grows.refl _).implicitReturn)); done)); clear hs; intro hs)
           | (apply stepWith e1; (focus (with_reducible apply (hs.step ∘ ((Grows.refl _).brIfOpen)); done)); clear hs; intro hs)
           | (apply stepWith e1; (focus (with_reducible apply (h.NewInst); done)); clear h; intro h)
           | (apply stepWith e1; (focus (with_reducible apply (h.NewStore); done)); clear h; intro h)
           | (apply stepWith e1; (focus (with_reducible apply (h.NewTerm); done)); clear h; intro h)
           | (apply stepWith e1; (focus (with_reducible apply (h.NewBlock); done)); clear h; intro h)
           | (apply stepWith e1; (focus (with_reducible apply (h.generateExpression); done)); clear h; intro h)
           | (apply stepWith e1; (focus (with_reducible apply (h.appendPrologue); done)); clear h; intro h)
           | (apply stepWith e1; (focus (with_reducible apply (h.appendEpilogue); done)); clear h; intro h)
           | (apply stepWith e1; (focus (with_reducible apply (h.generateBoundsCheck); done)); clear h; intro h)
           | (apply stepWith e1; (focus (with_reducible apply (Grows.appendElements (fun e _ => exprOK e) h); done)); clear h; intro h)
           | (apply stepWith e1; (focus (with_reducible apply (Grows.callArguments (fun e _ => exprOK e) h); done)); clear h; intro h)
           | (apply stepWith e1; (focus (with_reducible apply (Grows.printfArguments (fun e _ => exprOK e) h); done)); clear h; intro h)
           | (apply stepWith e1; (focus (with_reducible apply (Grows.arrayElements (fun e _ => exprOK e) h); done)); clear h; intro h)
           | (apply stepWith e1; (focus (with_reducible apply (h.bindLiteralParameters); done)); clear h; intro h)
           | (apply stepWith e1; (focus (with_reducible apply (Grows.generateBlockStatement (fun s _ => stmtOK s) h); done)); clear h; intro h)
           | (apply stepWith e1; (focus (with_reducible apply (h.implicitReturn); done)); clear h; intro h)
           | (apply stepWith e1; (focus (with_reducible apply (h.brIfOpen); done)); clear h; intro h)
           | (cases e1)
           | fail)
      | (split at e <;>
         try (rename_i heq
              first
                | (apply stepWith heq; (focus (with_reducible apply (hs.step ∘ ((Grows.refl _).getOrDeclare)); done)); clear hs; intro hs)
                | (apply stepWith heq; (focus (with_reducible apply (hs.step ∘ ((Grows.refl _).resolveCallee)); done)); clear hs; intro hs)
                | (apply stepWith heq; (focus (with_reducible apply (hs.step ∘ ((Grows.refl _).generateStringLiteral)); done)); clear hs; intro hs)
                | (apply stepWith heq; (focus (with_reducible apply (hs.step ∘ ((Grows.refl _).NewInst)); done)); clear hs; intro hs)
                | (apply stepWith heq; (focus (with_reducible apply (hs.step ∘ ((Grows.refl _).NewStore)); done)); clear hs; intro hs)
                | (apply stepWith heq; (focus (with_reducible apply (hs.step ∘ ((Grows.refl _).NewTerm)); done)); clear hs; intro hs)
                | (apply stepWith heq; (focus (with_reducible apply (hs.step ∘ ((Grows.refl _).NewBlock)); done)); clear hs; intro hs)
                | (apply stepWith heq; (focus (with_reducible apply (hs.step ∘ ((Grows.refl _).generateExpression)); done)); clear hs; intro hs)
                | (apply stepWith heq; (focus (with_reducible apply (hs.step ∘ ((Grows.refl _).appendPrologue)); done)); clear hs; intro hs)
                | (apply stepWith heq; (focus (with_reducible apply (hs.step ∘ ((Grows.refl _).appendEpilogue)); done)); clear hs; intro hs)
                | (apply stepWith heq; (focus (with_reducible apply (hs.step ∘ ((Grows.refl _).generateBoundsCheck)); done)); clear hs; intro hs)
                | (apply stepWith heq; (focus (with_reducible apply (hs.step ∘ (Grows.appendElements (fun e _ => exprOK e) (Grows.refl _))); done)); clear hs; intro hs)
                | (apply stepWith heq; (focus (with_reducible apply (hs.step ∘ (Grows.callArguments (fun e _ => exprOK e) (Grows.refl _))); done)); clear hs; intro hs)
                | (apply stepWith heq; (focus (with_reducible apply (hs.step ∘ (Grows.printfArguments (fun e _ => exprOK e) (Grows.refl _))); done)); clear hs; intro hs)
                | (apply stepWith heq; (focus (with_reducible apply (hs.step ∘ (Grows.arrayElements (fun e _ => exprOK e) (Grows.refl _))); done)); clear hs; intro hs)
                | (apply stepWith heq; (focus (with_reducible apply (hs.step ∘ ((Grows.refl _).bindLiteralParameters)); done)); clear hs; intro hs)
                | (apply stepWith heq; (focus (with_reducible apply (hs.step ∘ (Grows.generateBlockStatement (fun s _ => stmtOK s) (Grows.refl _))); done)); clear hs; intro hs)
                | (apply stepWith heq; (focus (with_reducible apply (hs.step ∘ ((Grows.refl _).implicitReturn)); done)); clear hs; intro hs)
                | (apply stepWith heq; (focus (with_reducible apply (hs.step ∘ ((Grows.refl _).brIfOpen)); done)); clear hs; intro hs)
                | (apply stepWith heq; (focus (with_reducible apply (h.getOrDeclare); done)); clear h; intro h)
                | (apply stepWith heq; (focus (with_reducible apply (h.resolveCallee); done)); clear h; intro h)
                | (apply stepWith heq; (focus (with_reducible apply (h.generateStringLiteral); done)); clear h; intro h)
                | (apply stepWith heq; (focus (with_reducible apply (h.NewInst); done)); clear h; intro h)
                | (apply stepWith heq; (focus (with_reducible apply (h.NewStore); done)); clear h; intro h)
                | (apply stepWith heq; (focus (with_reducible apply (h.NewTerm); done)); clear h; intro h)
                | (apply stepWith heq; (focus (with_reducible apply (h.NewBlock); done)); clear h; intro h)
                | (apply stepWith heq; (focus (with_reducible apply (h.generateExpression); done)); clear h; intro h)
                | (apply stepWith heq; (focus (with_reducible apply (h.appendPrologue); done)); clear h; intro h)
                | (apply stepWith heq; (focus (with_reducible apply (h.appendEpilogue); done)); clear h; intro h)
                | (apply stepWith heq; (focus (with_reducible apply (h.generateBoundsCheck); done)); clear h; intro h)
                | (apply stepWith heq; (focus (with_reducible apply (Grows.appendElements (fun e _ => exprOK e) h); done)); clear h; intro h)
                | (apply stepWith heq; (focus (with_reducible apply (Grows.callArguments (fun e _ => exprOK e) h); done)); clear h; intro h)
                | (apply stepWith heq; (focus (with_reducible apply (Grows.printfArguments (fun e _ => exprOK e) h); done)); clear h; intro h)
                | (apply stepWith heq; (focus (with_reducible apply (Grows.arrayElements (fun e _ => exprOK e) h); done)); clear h; intro h)
                | (apply stepWith heq; (focus (with_reducible apply (h.bindLiteralParameters); done)); clear h; intro h)
                | (apply stepWith heq; (focus (with_reducible apply (Grows.generateBlockStatement (fun s _ => stmtOK s) h); done)); clear h; intro h)
                | (apply stepWith heq; (focus (with_reducible apply (h.implicitReturn); done)); clear h; intro h)
                | (apply stepWith heq; (focus (with_reducible apply (h.brIfOpen); done)); clear h; intro h)
                | fail))
      | (cases e; first | done | exact hs.extend | exact h.report _ | fail)
      | (dsimp only at e)
      | fail)
  · rw [generateExitCall_cons_eq] at e
    try simp only [IRGenerator.NewAlloca, IRGenerator.NewLoad, IRGenerator.NewBin, IRGenerator.NewICmp, IRGenerator.NewFCmp, IRGenerator.NewGetElementPtr, IRGenerator.funcValue, NewCall_func, IRGenerator.NewCall, IRGenerator.NewZExt, IRGenerator.NewSelect, IRGenerator.NewBr, IRGenerator.NewCondBr, IRGenerator.NewRet, IRGenerator.NewUnreachable, IRGenerator.NewFunc, IRGenerator.NewGlobalDef] at e
    repeat' (first
      | (with_reducible first
          | (revert e; apply (hs.step ∘ ((Grows.refl _).NewInst)); done)
          | (revert e; apply (hs.step ∘ ((Grows.refl _).NewStore)); done)
          | (revert e; apply (hs.step ∘ ((Grows.refl _).NewTerm)); done)
          | (revert e; apply (hs.step ∘ ((Grows.refl _).NewBlock)); done)
          | (revert e; apply (hs.step ∘ ((Grows.refl _).generateExpression)); done)
          | (revert e; apply (hs.step ∘ ((Grows.refl _).appendPrologue)); done)
          | (revert e; apply (hs.step ∘ ((Grows.refl _).appendEpilogue)); done)
          | (revert e; apply (hs.step ∘ ((Grows.refl _).generateBoundsCheck)); done)
          | (revert e; apply (hs.step ∘ (Grows.appendElements (fun e _ => exprOK e) (Grows.refl _))); done)
          | (revert e; apply (hs.step ∘ (Grows.callArguments (fun e _ => exprOK e) (Grows.refl _))); done)
          | (revert e; apply (hs.step ∘ (Grows.printfArguments (fun e _ => exprOK e) (Grows.refl _))); done)
          | (revert e; apply (hs.step ∘ (Grows.arrayElements (fun e _ => exprOK e) (Grows.refl _))); done)
          | (revert e; apply (hs.step ∘ ((Grows.refl _).bindLiteralParameters)); done)
          | (revert e; apply (hs.step ∘ (Grows.generateBlockStatement (fun s _ => stmtOK s) (Grows.refl _))); done)
          | (revert e; apply (hs.step ∘ ((Grows.refl _).implicitReturn)); done)
          | (revert e; apply (hs.step ∘ ((Grows.refl _).brIfOpen)); done)
          | (revert e; apply (hs.step ∘ ((Grows.refl _).asResult)); done)
          | (revert e; apply (hs.step ∘ ((Grows.refl _).failWith)); done)
          | (revert e; apply (hs.step ∘ ((Grows.refl _).generateIdentifier)); done)
          | (revert e; apply (hs.step ∘ ((Grows.refl _).prefixOperator)); done)
          | (revert e; apply (hs.step ∘ ((Grows.refl _).generatePostfixExpression)); done)
          | (revert e; apply (hs.step ∘ ((Grows.refl _).generateStringConcatenation)); done)
          | (revert e; apply (hs.step ∘ ((Grows.refl _).infixOperator)); done)
          | (revert e; apply (hs.step ∘ ((Grows.refl _).indexAccess)); done)
          | (revert e; apply (hs.step ∘ ((Grows.refl _).lenOrCap)); done)
          | (revert e; apply (hs.step ∘ ((Grows.refl _).makeSlice)); done)
          | (revert e; apply (hs.step ∘ ((Grows.refl _).printfNoArguments)); done)
          | (revert e; apply (hs.step ∘ ((Grows.refl _).printfCall)); done)
          | (revert e; apply (hs.step ∘ (Grows.generateLenCall (fun e _ => exprOK e) (Grows.refl _))); done)
          | (revert e; apply (hs.step ∘ (Grows.generateCapCall (fun e _ => exprOK e) (Grows.refl _))); done)
          | (revert e; apply (hs.step ∘ (Grows.generateAppendCall (fun e _ => exprOK e) (Grows.refl _))); done)
          | (revert e; apply (hs.step ∘ (Grows.generateMakeCall (fun e _ => exprOK e) (Grows.refl _))); done)
          | (revert e; apply (hs.step ∘ (Grows.generateExitCall (fun e _ => exprOK e) (Grows.refl _))); done)
          | (revert e; apply (h.asResult_nil); done)
          | (revert e; apply (h.failWith_nil); done)
          | fail)
      | (apply stepWith e; (focus (with_reducible apply (@ite_ok _ _ _ _ _ _); done)); intro e2
         clear e
         rcases e2 with ⟨_, e⟩ | ⟨_, e⟩)
      | (simp only [bind_assoc, pure_bind] at e)
      | (rw [bind_ok] at e
         obtain ⟨⟨x1, g1⟩, e1, e⟩ := e
         try dsimp only at e
         first
           | (apply stepWith e1; (focus (with_reducible apply (hs.step ∘ ((Grows.refl _).NewInst)); done)); clear hs; intro hs)
           | (apply stepWith e1; (focus (with_reducible apply (hs.step ∘ ((Grows.refl _).NewStore)); done)); clear hs; intro hs)
           | (apply stepWith e1; (focus (with_reducible apply (hs.step ∘ ((Grows.refl _).NewTerm)); done)); clear hs; intro hs)
           | (apply stepWith e1; (focus (with_reducible apply (hs.step ∘ ((Grows.refl _).NewBlock)); done)); clear hs; intro hs)
           | (apply stepWith e1; (focus (with_reducible apply (hs.step ∘ ((Grows.refl _).generateExpression)); done)); clear hs; intro hs)
           | (apply stepWith e1; (focus (with_reducible apply (hs.step ∘ ((Grows.refl _).appendPrologue)); done)); clear hs; intro hs)
           | (apply stepWith e1; (focus (with_reducible apply (hs.step ∘ ((Grows.refl _).appendEpilogue)); done)); clear hs; intro hs)
           | (apply stepWith e1; (focus (with_reducible apply (hs.step ∘ ((Grows.refl _).generateBoundsCheck)); done)); clear hs; intro hs)
           | (apply stepWith e1; (focus (with_reducible apply (hs.step ∘ (Grows.appendElements (fun e _ => exprOK e) (Grows.refl _))); done)); clear hs; intro hs)
           | (apply stepWith e1; (focus (with_reducible apply (hs.step ∘ (Grows.callArguments (fun e _ => exprOK e) (Grows.refl _))); done)); clear hs; intro hs)
           | (apply stepWith e1; (focus (with_reducible apply (hs.step ∘ (Grows.printfArguments (fun e _ => exprOK e) (Grows.refl _))); done)); clear hs; intro hs)
           | (apply stepWith e1; (focus (with_reducible apply (hs.step ∘ (Grows.arrayElements (fun e _ => exprOK e) (Grows.refl _))); done)); clear hs; intro hs)
           | (apply stepWith e1; (focus (with_reducible apply (hs.step ∘ ((Grows.refl _).bindLiteralParameters)); done)); clear hs; intro hs)
           | (apply stepWith e1; (focus (with_reducible apply (hs.step ∘ (Grows.generateBlockStatement (fun s _ => stmtOK s) (Grows.refl _))); done)); clear hs; intro hs)
           | (apply stepWith e1; (focus (with_reducible apply (hs.step ∘ ((Grows.refl _).implicitReturn)); done)); clear hs; intro hs)
           | (apply stepWith e1; (focus (with_reducible apply (hs.step ∘ ((Grows.refl _).brIfOpen)); done)); clear hs; intro hs)
           | (apply stepWith e1; (focus (with_reducible apply (h.NewInst); done)); clear h; intro h)
           | (apply stepWith e1; (focus (with_reducible apply (h.NewStore); done)); clear h; intro h)
           | (apply stepWith e1; (focus (with_reducible apply (h.NewTerm); done)); clear h; intro h)
           | (apply stepWith e1; (focus (with_reducible apply (h.NewBlock); done)); clear h; intro h)
           | (apply stepWith e1; (focus (with_reducible apply (h.generateExpression); done)); clear h; intro h)
           | (apply stepWith e1; (focus (with_reducible apply (h.appendPrologue); done)); clear h; intro h)
           | (apply stepWith e1; (focus (with_reducible apply (h.appendEpilogue); done)); clear h; intro h)
           | (apply stepWith e1; (focus (with_reducible apply (h.generateBoundsCheck); done)); clear h; intro h)
           | (apply stepWith e1; (focus (with_reducible apply (Grows.appendElements (fun e _ => exprOK e) h); done)); clear h; intro h)
           | (apply stepWith e1; (focus (with_reducible apply (Grows.callArguments (fun e _ => exprOK e) h); done)); clear h; intro h)
           | (apply stepWith e1; (focus (with_reducible apply (Grows.printfArguments (fun e _ => exprOK e) h); done)); clear h; intro h)
           | (apply stepWith e1; (focus (with_reducible apply (Grows.arrayElements (fun e _ => exprOK e) h); done)); clear h; intro h)
           | (apply stepWith e1; (focus (with_reducible apply (h.bindLiteralParameters); done)); clear h; intro h)
           | (apply stepWith e1; (focus (with_reducible apply (Grows.generateBlockStatement (fun s _ => stmtOK s) h); done)); clear h; intro h)
           | (apply stepWith e1; (focus (with_reducible apply (h.implicitReturn); done)); clear h; intro h)
           | (apply stepWith e1; (focus (with_reducible apply (h.brIfOpen); done)); clear h; intro h)
           | (cases e1)
           | fail)
      | (split at e <;>
         try (rename_i heq
              first
                | (apply stepWith heq; (focus (with_reducible apply (hs.step ∘ ((Grows.refl _).getOrDeclare)); done)); clear hs; intro hs)
                | (apply stepWith heq; (focus (with_reducible apply (hs.step ∘ ((Grows.refl _).resolveCallee)); done)); clear hs; intro hs)
                | (apply stepWith heq; (focus (with_reducible apply (hs.step ∘ ((Grows.refl _).generateStringLiteral)); done)); clear hs; intro hs)
                | (apply stepWith heq; (focus (with_reducible apply (hs.step ∘ ((Grows.refl _).NewInst)); done)); clear hs; intro hs)
                | (apply stepWith heq; (focus (with_reducible apply (hs.step ∘ ((Grows.refl _).NewStore)); done)); clear hs; intro hs)
                | (apply stepWith heq; (focus (with_reducible apply (hs.step ∘ ((Grows.refl _).NewTerm)); done)); clear hs; intro hs)
                | (apply stepWith heq; (focus (with_reducible apply (hs.step ∘ ((Grows.refl _).NewBlock)); done)); clear hs; intro hs)
                | (apply stepWith heq; (focus (with_reducible apply (hs.step ∘ ((Grows.refl _).generateExpression)); done)); clear hs; intro hs)
                | (apply stepWith heq; (focus (with_reducible apply (hs.step ∘ ((Grows.refl _).appendPrologue)); done)); clear hs; intro hs)
                | (apply stepWith heq; (focus (with_reducible apply (hs.step ∘ ((Grows.refl _).appendEpilogue)); done)); clear hs; intro hs)
                | (apply stepWith heq; (focus (with_reducible apply (hs.step ∘ ((Grows.refl _).generateBoundsCheck)); done)); clear hs; intro hs)
                | (apply stepWith heq; (focus (with_reducible apply (hs.step ∘ (Grows.appendElements (fun e _ => exprOK e) (Grows.refl _))); done)); clear hs; intro hs)
                | (apply stepWith heq; (focus (with_reducible apply (hs.step ∘ (Grows.callArguments (fun e _ => exprOK e) (Grows.refl _))); done)); clear hs; intro hs)
                | (apply stepWith heq; (focus (with_reducible apply (hs.step ∘ (Grows.printfArguments (fun e _ => exprOK e) (Grows.refl _))); done)); clear hs; intro hs)
                | (apply stepWith heq; (focus (with_reducible apply (hs.step ∘ (Grows.arrayElements (fun e _ => exprOK e) (Grows.refl _))); done)); clear hs; intro hs)
                | (apply stepWith heq; (focus (with_reducible apply (hs.step ∘ ((Grows.refl _).bindLiteralParameters)); done)); clear hs; intro hs)
                | (apply stepWith heq; (focus (with_reducible apply (hs.step ∘ (Grows.generateBlockStatement (fun s _ => stmtOK s) (Grows.refl _))); done)); clear hs; intro hs)
                | (apply stepWith heq; (focus (with_reducible apply (hs.step ∘ ((Grows.refl _).implicitReturn)); done)); clear hs; intro hs)
                | (apply stepWith heq; (focus (with_reducible apply (hs.step ∘ ((Grows.refl _).brIfOpen)); done)); clear hs; intro hs)
                | (apply stepWith heq; (focus (with_reducible apply (h.getOrDeclare); done)); clear h; intro h)
                | (apply stepWith heq; (focus (with_reducible apply (h.resolveCallee); done)); clear h; intro h)
                | (apply stepWith heq; (focus (with_reducible apply (h.generateStringLiteral); done)); clear h; intro h)
                | (apply stepWith heq; (focus (with_reducible apply (h.NewInst); done)); clear h; intro h)
                | (apply stepWith heq; (focus (with_reducible apply (h.NewStore); done)); clear h; intro h)
                | (apply stepWith heq; (focus (with_reducible apply (h.NewTerm); done)); clear h; intro h)
                | (apply stepWith heq; (focus (with_reducible apply (h.NewBlock); done)); clear h; intro h)
                | (apply stepWith heq; (focus (with_reducible apply (h.generateExpression); done)); clear h; intro h)
                | (apply stepWith heq; (focus (with_reducible apply (h.appendPrologue); done)); clear h; intro h)
                | (apply stepWith heq; (focus (with_reducible apply (h.appendEpilogue); done)); clear h; intro h)
                | (apply stepWith heq; (focus (with_reducible apply (h.generateBoundsCheck); done)); clear h; intro h)
                | (apply stepWith heq; (focus (with_reducible apply (Grows.appendElements (fun e _ => exprOK e) h); done)); clear h; intro h)
                | (apply stepWith heq; (focus (with_reducible apply (Grows.callArguments (fun e _ => exprOK e) h); done)); clear h; intro h)
                | (apply stepWith heq; (focus (with_reducible apply (Grows.printfArguments (fun e _ => exprOK e) h); done)); clear h; intro h)
                | (apply stepWith heq; (focus (with_reducible apply (Grows.arrayElements (fun e _ => exprOK e) h); done)); clear h; intro h)
                | (apply stepWith heq; (focus (with_reducible apply (h.bindLiteralParameters); done)); clear h; intro h)
                | (apply stepWith heq; (focus (with_reducible apply (Grows.generateBlockStatement (fun s _ => stmtOK s) h); done)); clear h; intro h)
                | (apply stepWith heq; (focus (with_reducible apply (h.implicitReturn); done)); clear h; intro h)
                | (apply stepWith heq; (focus (with_reducible apply (h.brIfOpen); done)); clear h; intro h)
                | fail))
      | (cases e; first | done | exact hs.extend | exact h.report _ | fail)
      | (dsimp only at e)
      | fail)

theorem NilOK.of_identifier (name : String) :
    NilOK (.Identifier name) := by
  constructor
  intro x g' e
  have h : Grows x x := Grows.refl x
  rw [generateExpression_identifier_eq] at e
  try simp only [IRGenerator.NewAlloca, IRGenerator.NewLoad, IRGenerator.NewBin, IRGenerator.NewICmp, IRGenerator.NewFCmp, IRGenerator.NewGetElementPtr, IRGenerator.funcValue, NewCall_func, IRGenerator.NewCall, IRGenerator.NewZExt, IRGenerator.NewSelect, IRGenerator.NewBr, IRGenerator.NewCondBr, IRGenerator.NewRet, IRGenerator.NewUnreachable, IRGenerator.NewFunc, IRGenerator.NewGlobalDef] at e
  repeat' (first
    | (with_reducible first
        | (revert e; apply (hs.step ∘ ((Grows.refl _).NewInst)); done)
        | (revert e; apply (hs.step ∘ ((Grows.refl _).NewStore)); done)
        | (revert e; apply (hs.step ∘ ((Grows.refl _).NewTerm)); done)
        | (revert e; apply (hs.step ∘ ((Grows.refl _).NewBlock)); done)
        | (revert e; apply (hs.step ∘ ((Grows.refl _).generateExpression)); done)
        | (revert e; apply (hs.step ∘ ((Grows.refl _).appendPrologue)); done)
        | (revert e; apply (hs.step ∘ ((Grows.refl _).appendEpilogue)); done)
        | (revert e; apply (hs.step ∘ ((Grows.refl _).generateBoundsCheck)); done)
        | (revert e; apply (hs.step ∘ (Grows.appendElements (fun e _ => exprOK e) (Grows.refl _))); done)
        | (revert e; apply (hs.step ∘ (Grows.callArguments (fun e _ => exprOK e) (Grows.refl _))); done)
        | (revert e; apply (hs.step ∘ (Grows.printfArguments (fun e _ => exprOK e) (Grows.refl _))); done)
        | (revert e; apply (hs.step ∘ (Grows.arrayElements (fun e _ => exprOK e) (Grows.refl _))); done)
        | (revert e; apply (hs.step ∘ ((Grows.refl _).bindLiteralParameters)); done)
        | (revert e; apply (hs.step ∘ (Grows.generateBlockStatement (fun s _ => stmtOK s) (Grows.refl _))); done)
        | (revert e; apply (hs.step ∘ ((Grows.refl _).implicitReturn)); done)
        | (revert e; apply (hs.step ∘ ((Grows.refl _).brIfOpen)); done)
        | (revert e; apply (hs.step ∘ ((Grows.refl _).asResult)); done)
        | (revert e; apply (hs.step ∘ ((Grows.refl _).failWith)); done)
        | (revert e; apply (hs.step ∘ ((Grows.refl _).generateIdentifier)); done)
        | (revert e; apply (hs.step ∘ ((Grows.refl _).prefixOperator)); done)
        | (revert e; apply (hs.step ∘ ((Grows.refl _).generatePostfixExpression)); done)
        | (revert e; apply (hs.step ∘ ((Grows.refl _).generateStringConcatenation)); done)
        | (revert e; apply (hs.step ∘ ((Grows.refl _).infixOperator)); done)
        | (revert e; apply (hs.step ∘ ((Grows.refl _).indexAccess)); done)
        | (revert e; apply (hs.step ∘ ((Grows.refl _).lenOrCap)); done)
        | (revert e; apply (hs.step ∘ ((Grows.refl _).makeSlice)); done)
        | (revert e; apply (hs.step ∘ ((Grows.refl _).printfNoArguments)); done)
        | (revert e; apply (hs.step ∘ ((Grows.refl _).printfCall)); done)
        | (revert e; apply (hs.step ∘ (Grows.generateLenCall (fun e _ => exprOK e) (Grows.refl _))); done)
        | (revert e; apply (hs.step ∘ (Grows.generateCapCall (fun e _ => exprOK e) (Grows.refl _))); done)
        | (revert e; apply (hs.step ∘ (Grows.generateAppendCall (fun e _ => exprOK e) (Grows.refl _))); done)
        | (revert e; apply (hs.step ∘ (Grows.generateMakeCall (fun e _ => exprOK e) (Grows.refl _))); done)
        | (revert e; apply (hs.step ∘ (Grows.generateExitCall (fun e _ => exprOK e) (Grows.refl _))); done)
        | (revert e; apply (h.asResult_nil); done)
        | (revert e; apply (h.failWith_nil); done)
        | (revert e; apply (h.generateIdentifier_nil); done)
        | fail)
    | (apply stepWith e; (focus (with_reducible apply (@ite_ok _ _ _ _ _ _); done)); intro e2
       clear e
       rcases e2 with ⟨_, e⟩ | ⟨_, e⟩)
    | (simp only [bind_assoc, pure_bind] at e)
    | (rw [bind_ok] at e
       obtain ⟨⟨x1, g1⟩, e1, e⟩ := e
       try dsimp only at e
       first
         | (apply stepWith e1; (focus (with_reducible apply (hs.step ∘ ((Grows.refl _).NewInst)); done)); clear hs; intro hs)
         | (apply stepWith e1; (focus (with_reducible apply (hs.step ∘ ((Grows.refl _).NewStore)); done)); clear hs; intro hs)
         | (apply stepWith e1; (focus (with_reducible apply (hs.step ∘ ((Grows.refl _).NewTerm)); done)); clear hs; intro hs)
         | (apply stepWith e1; (focus (with_reducible apply (hs.step ∘ ((Grows.refl _).NewBlock)); done)); clear hs; intro hs)
         | (apply stepWith e1; (focus (with_reducible apply (hs.step ∘ ((Grows.refl _).generateExpression)); done)); clear hs; intro hs)
         | (apply stepWith e1; (focus (with_reducible apply (hs.step ∘ ((Grows.refl _).appendPrologue)); done)); clear hs; intro hs)
         | (apply stepWith e1; (focus (with_reducible apply (hs.step ∘ ((Grows.refl _).appendEpilogue)); done)); clear hs; intro hs)
         | (apply stepWith e1; (focus (with_reducible apply (hs.step ∘ ((Grows.refl _).generateBoundsCheck)); done)); clear hs; intro hs)
         | (apply stepWith e1; (focus (with_reducible apply (hs.step ∘ (Grows.appendElements (fun e _ => exprOK e) (Grows.refl _))); done)); clear hs; intro hs)
         | (apply stepWith e1; (focus (with_reducible apply (hs.step ∘ (Grows.callArguments (fun e _ => exprOK e) (Grows.refl _))); done)); clear hs; intro hs)
         | (apply stepWith e1; (focus (with_reducible apply (hs.step ∘ (Grows.printfArguments (fun e _ => exprOK e) (Grows.refl _))); done)); clear hs; intro hs)
         | (apply stepWith e1; (focus (with_reducible apply (hs.step ∘ (Grows.arrayElements (fun e _ => exprOK e) (Grows.refl _))); done)); clear hs; intro hs)
         | (apply stepWith e1; (focus (with_reducible apply (hs.step ∘ ((Grows.refl _).bindLiteralParameters)); done)); clear hs; intro hs)
         | (apply stepWith e1; (focus (with_reducible apply (hs.step ∘ (Grows.generateBlockStatement (fun s _ => stmtOK s) (Grows.refl _))); done)); clear hs; intro hs)
         | (apply stepWith e1; (focus (with_reducible apply (hs.step ∘ ((Grows.refl _).implicitReturn)); done)); clear hs; intro hs)
         | (apply stepWith e1; (focus (with_reducible apply (hs.step ∘ ((Grows.refl _).brIfOpen)); done)); clear hs; intro hs)
         | (apply stepWith e1; (focus (with_reducible apply (h.NewInst); done)); clear h; intro h)
         | (apply stepWith e1; (focus (with_reducible apply (h.NewStore); done)); clear h; intro h)
         | (apply stepWith e1; (focus (with_reducible apply (h.NewTerm); done)); clear h; intro h)
         | (apply stepWith e1; (focus (with_reducible apply (h.NewBlock); done)); clear h; intro h)
         | (apply stepWith e1; (focus (with_reducible apply (h.generateExpression); done)); clear h; intro h)
         | (apply stepWith e1; (focus (with_reducible apply (h.appendPrologue); done)); clear h; intro h)
         | (apply stepWith e1; (focus (with_reducible apply (h.appendEpilogue); done)); clear h; intro h)
         | (apply stepWith e1; (focus (with_reducible apply (h.generateBoundsCheck); done)); clear h; intro h)
         | (apply stepWith e1; (focus (with_reducible apply (Grows.appendElements (fun e _ => exprOK e) h); done)); clear h; intro h)
         | (apply stepWith e1; (focus (with_reducible apply (Grows.callArguments (fun e _ => exprOK e) h); done)); clear h; intro h)
         | (apply stepWith e1; (focus (with_reducible apply (Grows.printfArguments (fun e _ => exprOK e) h); done)); clear h; intro h)
         | (apply stepWith e1; (focus (with_reducible apply (Grows.arrayElements (fun e _ => exprOK e) h); done)); clear h; intro h)
         | (apply stepWith e1; (focus (with_reducible apply (h.bindLiteralParameters); done)); clear h; intro h)
         | (apply stepWith e1; (focus (with_reducible apply (Grows.generateBlockStatement (fun s _ => stmtOK s) h); done)); clear h; intro h)
         | (apply stepWith e1; (focus (with_reducible apply (h.implicitReturn); done)); clear h; intro h)
         | (apply stepWith e1; (focus (with_reducible apply (h.brIfOpen); done)); clear h; intro h)
         | (cases e1)
         | fail)
    | (split at e <;>
       try (rename_i heq
            first
              | (apply stepWith heq; (focus (with_reducible apply (hs.step ∘ ((Grows.refl _).getOrDeclare)); done)); clear hs; intro hs)
              | (apply stepWith heq; (focus (with_reducible apply (hs.step ∘ ((Grows.refl _).resolveCallee)); done)); clear hs; intro hs)
              | (apply stepWith heq; (focus (with_reducible apply (hs.step ∘ ((Grows.refl _).generateStringLiteral)); done)); clear hs; intro hs)
              | (apply stepWith heq; (focus (with_reducible apply (hs.step ∘ ((Grows.refl _).NewInst)); done)); clear hs; intro hs)
              | (apply stepWith heq; (focus (with_reducible apply (hs.step ∘ ((Grows.refl _).NewStore)); done)); clear hs; intro hs)
              | (apply stepWith heq; (focus (with_reducible apply (hs.step ∘ ((Grows.refl _).NewTerm)); done)); clear hs; intro hs)
              | (apply stepWith heq; (focus (with_reducible apply (hs.step ∘ ((Grows.refl _).NewBlock)); done)); clear hs; intro hs)
              | (apply stepWith heq; (focus (with_reducible apply (hs.step ∘ ((Grows.refl _).generateExpression)); done)); clear hs; intro hs)
              | (apply stepWith heq; (focus (with_reducible apply (hs.step ∘ ((Grows.refl _).appendPrologue)); done)); clear hs; intro hs)
              | (apply stepWith heq; (focus (with_reducible apply (hs.step ∘ ((Grows.refl _).appendEpilogue)); done)); clear hs; intro hs)
              | (apply stepWith heq; (focus (with_reducible apply (hs.step ∘ ((Grows.refl _).generateBoundsCheck)); done)); clear hs; intro hs)
              | (apply stepWith heq; (focus (with_reducible apply (hs.step ∘ (Grows.appendElements (fun e _ => exprOK e) (Grows.refl _))); done)); clear hs; intro hs)
              | (apply stepWith heq; (focus (with_reducible apply (hs.step ∘ (Grows.callArguments (fun e _ => exprOK e) (Grows.refl _))); done)); clear hs; intro hs)
              | (apply stepWith heq; (focus (with_reducible apply (hs.step ∘ (Grows.printfArguments (fun e _ => exprOK e) (Grows.refl _))); done)); clear hs; intro hs)
              | (apply stepWith heq; (focus (with_reducible apply (hs.step ∘ (Grows.arrayElements (fun e _ => exprOK e) (Grows.refl _))); done)); clear hs; intro hs)
              | (apply stepWith heq; (focus (with_reducible apply (hs.step ∘ ((Grows.refl _).bindLiteralParameters)); done)); clear hs; intro hs)
              | (apply stepWith heq; (focus (with_reducible apply (hs.step ∘ (Grows.generateBlockStatement (fun s _ => stmtOK s) (Grows.refl _))); done)); clear hs; intro hs)
              | (apply stepWith heq; (focus (with_reducible apply (hs.step ∘ ((Grows.refl _).implicitReturn)); done)); clear hs; intro hs)
              | (apply stepWith heq; (focus (with_reducible apply (hs.step ∘ ((Grows.refl _).brIfOpen)); done)); clear hs; intro hs)
              | (apply stepWith heq; (focus (with_reducible apply (h.getOrDeclare); done)); clear h; intro h)
              | (apply stepWith heq; (focus (with_reducible apply (h.resolveCallee); done)); clear h; intro h)
              | (apply stepWith heq; (focus (with_reducible apply (h.generateStringLiteral); done)); clear h; intro h)
              | (apply stepWith heq; (focus (with_reducible apply (h.NewInst); done)); clear h; intro h)
              | (apply stepWith heq; (focus (with_reducible apply (h.NewStore); done)); clear h; intro h)
              | (apply stepWith heq; (focus (with_reducible apply (h.NewTerm); done)); clear h; intro h)
              | (apply stepWith heq; (focus (with_reducible apply (h.NewBlock); done)); clear h; intro h)
              | (apply stepWith heq; (focus (with_reducible apply (h.generateExpression); done)); clear h; intro h)
              | (apply stepWith heq; (focus (with_reducible apply (h.appendPrologue); done)); clear h; intro h)
              | (apply stepWith heq; (focus (with_reducible apply (h.appendEpilogue); done)); clear h; intro h)
              | (apply stepWith heq; (focus (with_reducible apply (h.generateBoundsCheck); done)); clear h; intro h)
              | (apply stepWith heq; (focus (with_reducible apply (Grows.appendElements (fun e _ => exprOK e) h); done)); clear h; intro h)
              | (apply stepWith heq; (focus (with_reducible apply (Grows.callArguments (fun e _ => exprOK e) h); done)); clear h; intro h)
              | (apply stepWith heq; (focus (with_reducible apply (Grows.printfArguments (fun e _ => exprOK e) h); done)); clear h; intro h)
              | (apply stepWith heq; (focus (with_reducible apply (Grows.arrayElements (fun e _ => exprOK e) h); done)); clear h; intro h)
              | (apply stepWith heq; (focus (with_reducible apply (h.bindLiteralParameters); done)); clear h; intro h)
              | (apply stepWith heq; (focus (with_reducible apply (Grows.generateBlockStatement (fun s _ => stmtOK s) h); done)); clear h; intro h)
              | (apply stepWith heq; (focus (with_reducible apply (h.implicitReturn); done)); clear h; intro h)
              | (apply stepWith heq; (focus (with_reducible apply (h.brIfOpen); done)); clear h; intro h)
              | fail))
    | (cases e; first | done | exact hs.extend | exact h.report _ | fail)
    | (dsimp only at e)
    | fail)

theorem NilOK.of_integer (v : Int) :
    NilOK (.IntegerLiteral v) := by
  constructor
  intro x g' e
  have h : Grows x x := Grows.refl x
  rw [generateExpression_integer_eq] at e
  try simp only [IRGenerator.NewAlloca, IRGenerator.NewLoad, IRGenerator.NewBin, IRGenerator.NewICmp, IRGenerator.NewFCmp, IRGenerator.NewGetElementPtr, IRGenerator.funcValue, NewCall_func, IRGenerator.NewCall, IRGenerator.NewZExt, IRGenerator.NewSelect, IRGenerator.NewBr, IRGenerator.NewCondBr, IRGenerator.NewRet, IRGenerator.NewUnreachable, IRGenerator.NewFunc, IRGenerator.NewGlobalDef] at e
  repeat' (first
    | (with_reducible first
        | (revert e; apply (hs.step ∘ ((Grows.refl _).NewInst)); done)
        | (revert e; apply (hs.step ∘ ((Grows.refl _).NewStore)); done)
        | (revert e; apply (hs.step ∘ ((Grows.refl _).NewTerm)); done)
        | (revert e; apply (hs.step ∘ ((Grows.refl _).NewBlock)); done)
        | (revert e; apply (hs.step ∘ ((Grows.refl _).generateExpression)); done)
        | (revert e; apply (hs.step ∘ ((Grows.refl _).appendPrologue)); done)
        | (revert e; apply (hs.step ∘ ((Grows.refl _).appendEpilogue)); done)
        | (revert e; apply (hs.step ∘ ((Grows.refl _).generateBoundsCheck)); done)
        | (revert e; apply (hs.step ∘ (Grows.appendElements (fun e _ => exprOK e) (Grows.refl _))); done)
        | (revert e; apply (hs.step ∘ (Grows.callArguments (fun e _ => exprOK e) (Grows.refl _))); done)
        | (revert e; apply (hs.step ∘ (Grows.printfArguments (fun e _ => exprOK e) (Grows.refl _))); done)
        | (revert e; apply (hs.step ∘ (Grows.arrayElements (fun e _ => exprOK e) (Grows.refl _))); done)
        | (revert e; apply (hs.step ∘ ((Grows.refl _).bindLiteralParameters)); done)
        | (revert e; apply (hs.step ∘ (Grows.generateBlockStatement (fun s _ => stmtOK s) (Grows.refl _))); done)
        | (revert e; apply (hs.step ∘ ((Grows.refl _).implicitReturn)); done)
        | (revert e; apply (hs.step ∘ ((Grows.refl _).brIfOpen)); done)
        | (revert e; apply (hs.step ∘ ((Grows.refl _).asResult)); done)
        | (revert e; apply (hs.step ∘ ((Grows.refl _).failWith)); done)
        | (revert e; apply (hs.step ∘ ((Grows.refl _).generateIdentifier)); done)
        | (revert e; apply (hs.step ∘ ((Grows.refl _).prefixOperator)); done)
        | (revert e; apply (hs.step ∘ ((Grows.refl _).generatePostfixExpression)); done)
        | (revert e; apply (hs.step ∘ ((Grows.refl _).generateStringConcatenation)); done)
        | (revert e; apply (hs.step ∘ ((Grows.refl _).infixOperator)); done)
        | (revert e; apply (hs.step ∘ ((Grows.refl _).indexAccess)); done)
        | (revert e; apply (hs.step ∘ ((Grows.refl _).lenOrCap)); done)
        | (revert e; apply (hs.step ∘ ((Grows.refl _).makeSlice)); done)
        | (revert e; apply (hs.step ∘ ((Grows.refl _).printfNoArguments)); done)
        | (revert e; apply (hs.step ∘ ((Grows.refl _).printfCall)); done)
        | (revert e; apply (hs.step ∘ (Grows.generateLenCall (fun e _ => exprOK e) (Grows.refl _))); done)
        | (revert e; apply (hs.step ∘ (Grows.generateCapCall (fun e _ => exprOK e) (Grows.refl _))); done)
        | (revert e; apply (hs.step ∘ (Grows.generateAppendCall (fun e _ => exprOK e) (Grows.refl _))); done)
        | (revert e; apply (hs.step ∘ (Grows.generateMakeCall (fun e _ => exprOK e) (Grows.refl _))); done)
        | (revert e; apply (hs.step ∘ (Grows.generateExitCall (fun e _ => exprOK e) (Grows.refl _))); done)
        | (revert e; apply (h.asResult_nil); done)
        | (revert e; apply (h.failWith_nil); done)
        | fail)
    | (apply stepWith e; (focus (with_reducible apply (@ite_ok _ _ _ _ _ _); done)); intro e2
       clear e
       rcases e2 with ⟨_, e⟩ | ⟨_, e⟩)
    | (simp only [bind_assoc, pure_bind] at e)
    | (rw [bind_ok] at e
       obtain ⟨⟨x1, g1⟩, e1, e⟩ := e
       try dsimp only at e
       first
         | (apply stepWith e1; (focus (with_reducible apply (hs.step ∘ ((Grows.refl _).NewInst)); done)); clear hs; intro hs)
         | (apply stepWith e1; (focus (with_reducible apply (hs.step ∘ ((Grows.refl _).NewStore)); done)); clear hs; intro hs)
         | (apply stepWith e1; (focus (with_reducible apply (hs.step ∘ ((Grows.refl _).NewTerm)); done)); clear hs; intro hs)
         | (apply stepWith e1; (focus (with_reducible apply (hs.step ∘ ((Grows.refl _).NewBlock)); done)); clear hs; intro hs)
         | (apply stepWith e1; (focus (with_reducible apply (hs.step ∘ ((Grows.refl _).generateExpression)); done)); clear hs; intro hs)
         | (apply stepWith e1; (focus (with_reducible apply (hs.step ∘ ((Grows.refl _).appendPrologue)); done)); clear hs; intro hs)
         | (apply stepWith e1; (focus (with_reducible apply (hs.step ∘ ((Grows.refl _).appendEpilogue)); done)); clear hs; intro hs)
         | (apply stepWith e1; (focus (with_reducible apply (hs.step ∘ ((Grows.refl _).generateBoundsCheck)); done)); clear hs; intro hs)
         | (apply stepWith e1; (focus (with_reducible apply (hs.step ∘ (Grows.appendElements (fun e _ => exprOK e) (Grows.refl _))); done)); clear hs; intro hs)
         | (apply stepWith e1; (focus (with_reducible apply (hs.step ∘ (Grows.callArguments (fun e _ => exprOK e) (Grows.refl _))); done)); clear hs; intro hs)
         | (apply stepWith e1; (focus (with_reducible apply (hs.step ∘ (Grows.printfArguments (fun e _ => exprOK e) (Grows.refl _))); done)); clear hs; intro hs)
         | (apply stepWith e1; (focus (with_reducible apply (hs.step ∘ (Grows.arrayElements (fun e _ => exprOK e) (Grows.refl _))); done)); clear hs; intro hs)
         | (apply stepWith e1; (focus (with_reducible apply (hs.step ∘ ((Grows.refl _).bindLiteralParameters)); done)); clear hs; intro hs)
         | (apply stepWith e1; (focus (with_reducible apply (hs.step ∘ (Grows.generateBlockStatement (fun s _ => stmtOK s) (Grows.refl _))); done)); clear hs; intro hs)
         | (apply stepWith e1; (focus (with_reducible apply (hs.step ∘ ((Grows.refl _).implicitReturn)); done)); clear hs; intro hs)
         | (apply stepWith e1; (focus (with_reducible apply (hs.step ∘ ((Grows.refl _).brIfOpen)); done)); clear hs; intro hs)
         | (apply stepWith e1; (focus (with_reducible apply (h.NewInst); done)); clear h; intro h)
         | (apply stepWith e1; (focus (with_reducible apply (h.NewStore); done)); clear h; intro h)
         | (apply stepWith e1; (focus (with_reducible apply (h.NewTerm); done)); clear h; intro h)
         | (apply stepWith e1; (focus (with_reducible apply (h.NewBlock); done)); clear h; intro h)
         | (apply stepWith e1; (focus (with_reducible apply (h.generateExpression); done)); clear h; intro h)
         | (apply stepWith e1; (focus (with_reducible apply (h.appendPrologue); done)); clear h; intro h)
         | (apply stepWith e1; (focus (with_reducible apply (h.appendEpilogue); done)); clear h; intro h)
         | (apply stepWith e1; (focus (with_reducible apply (h.generateBoundsCheck); done)); clear h; intro h)
         | (apply stepWith e1; (focus (with_reducible apply (Grows.appendElements (fun e _ => exprOK e) h); done)); clear h; intro h)
         | (apply stepWith e1; (focus (with_reducible apply (Grows.callArguments (fun e _ => exprOK e) h); done)); clear h; intro h)
         | (apply stepWith e1; (focus (with_reducible apply (Grows.printfArguments (fun e _ => exprOK e) h); done)); clear h; intro h)
         | (apply stepWith e1; (focus (with_reducible apply (Grows.arrayElements (fun e _ => exprOK e) h); done)); clear h; intro h)
         | (apply stepWith e1; (focus (with_reducible apply (h.bindLiteralParameters); done)); clear h; intro h)
         | (apply stepWith e1; (focus (with_reducible apply (Grows.generateBlockStatement (fun s _ => stmtOK s) h); done)); clear h; intro h)
         | (apply stepWith e1; (focus (with_reducible apply (h.implicitReturn); done)); clear h; intro h)
         | (apply stepWith e1; (focus (with_reducible apply (h.brIfOpen); done)); clear h; intro h)
         | (cases e1)
         | fail)
    | (split at e <;>
       try (rename_i heq
            first
              | (apply stepWith heq; (focus (with_reducible apply (hs.step ∘ ((Grows.refl _).getOrDeclare)); done)); clear hs; intro hs)
              | (apply stepWith heq; (focus (with_reducible apply (hs.step ∘ ((Grows.refl _).resolveCallee)); done)); clear hs; intro hs)
              | (apply stepWith heq; (focus (with_reducible apply (hs.step ∘ ((Grows.refl _).generateStringLiteral)); done)); clear hs; intro hs)
              | (apply stepWith heq; (focus (with_reducible apply (hs.step ∘ ((Grows.refl _).NewInst)); done)); clear hs; intro hs)
              | (apply stepWith heq; (focus (with_reducible apply (hs.step ∘ ((Grows.refl _).NewStore)); done)); clear hs; intro hs)
              | (apply stepWith heq; (focus (with_reducible apply (hs.step ∘ ((Grows.refl _).NewTerm)); done)); clear hs; intro hs)
              | (apply stepWith heq; (focus (with_reducible apply (hs.step ∘ ((Grows.refl _).NewBlock)); done)); clear hs; intro hs)
              | (apply stepWith heq; (focus (with_reducible apply (hs.step ∘ ((Grows.refl _).generateExpression)); done)); clear hs; intro hs)
              | (apply stepWith heq; (focus (with_reducible apply (hs.step ∘ ((Grows.refl _).appendPrologue)); done)); clear hs; intro hs)
              | (apply stepWith heq; (focus (with_reducible apply (hs.step ∘ ((Grows.refl _).appendEpilogue)); done)); clear hs; intro hs)
              | (apply stepWith heq; (focus (with_reducible apply (hs.step ∘ ((Grows.refl _).generateBoundsCheck)); done)); clear hs; intro hs)
              | (apply stepWith heq; (focus (with_reducible apply (hs.step ∘ (Grows.appendElements (fun e _ => exprOK e) (Grows.refl _))); done)); clear hs; intro hs)
              | (apply stepWith heq; (focus (with_reducible apply (hs.step ∘ (Grows.callArguments (fun e _ => exprOK e) (Grows.refl _))); done)); clear hs; intro hs)
              | (apply stepWith heq; (focus (with_reducible apply (hs.step ∘ (Grows.printfArguments (fun e _ => exprOK e) (Grows.refl _))); done)); clear hs; intro hs)
              | (apply stepWith heq; (focus (with_reducible apply (hs.step ∘ (Grows.arrayElements (fun e _ => exprOK e) (Grows.refl _))); done)); clear hs; intro hs)
              | (apply stepWith heq; (focus (with_reducible apply (hs.step ∘ ((Grows.refl _).bindLiteralParameters)); done)); clear hs; intro hs)
              | (apply stepWith heq; (focus (with_reducible apply (hs.step ∘ (Grows.generateBlockStatement (fun s _ => stmtOK s) (Grows.refl _))); done)); clear hs; intro hs)
              | (apply stepWith heq; (focus (with_reducible apply (hs.step ∘ ((Grows.refl _).implicitReturn)); done)); clear hs; intro hs)
              | (apply stepWith heq; (focus (with_reducible apply (hs.step ∘ ((Grows.refl _).brIfOpen)); done)); clear hs; intro hs)
              | (apply stepWith heq; (focus (with_reducible apply (h.getOrDeclare); done)); clear h; intro h)
              | (apply stepWith heq; (focus (with_reducible apply (h.resolveCallee); done)); clear h; intro h)
              | (apply stepWith heq; (focus (with_reducible apply (h.generateStringLiteral); done)); clear h; intro h)
              | (apply stepWith heq; (focus (with_reducible apply (h.NewInst); done)); clear h; intro h)
              | (apply stepWith heq; (focus (with_reducible apply (h.NewStore); done)); clear h; intro h)
              | (apply stepWith heq; (focus (with_reducible apply (h.NewTerm); done)); clear h; intro h)
              | (apply stepWith heq; (focus (with_reducible apply (h.NewBlock); done)); clear h; intro h)
              | (apply stepWith heq; (focus (with_reducible apply (h.generateExpression); done)); clear h; intro h)
              | (apply stepWith heq; (focus (with_reducible apply (h.appendPrologue); done)); clear h; intro h)
              | (apply stepWith heq; (focus (with_reducible apply (h.appendEpilogue); done)); clear h; intro h)
              | (apply stepWith heq; (focus (with_reducible apply (h.generateBoundsCheck); done)); clear h; intro h)
              | (apply stepWith heq; (focus (with_reducible apply (Grows.appendElements (fun e _ => exprOK e) h); done)); clear h; intro h)
              | (apply stepWith heq; (focus (with_reducible apply (Grows.callArguments (fun e _ => exprOK e) h); done)); clear h; intro h)
              | (apply stepWith heq; (focus (with_reducible apply (Grows.printfArguments (fun e _ => exprOK e) h); done)); clear h; intro h)
              | (apply stepWith heq; (focus (with_reducible apply (Grows.arrayElements (fun e _ => exprOK e) h); done)); clear h; intro h)
              | (apply stepWith heq; (focus (with_reducible apply (h.bindLiteralParameters); done)); clear h; intro h)
              | (apply stepWith heq; (focus (with_reducible apply (Grows.generateBlockStatement (fun s _ => stmtOK s) h); done)); clear h; intro h)
              | (apply stepWith heq; (focus (with_reducible apply (h.implicitReturn); done)); clear h; intro h)
              | (apply stepWith heq; (focus (with_reducible apply (h.brIfOpen); done)); clear h; intro h)
              | fail))
    | (cases e; first | done | exact hs.extend | exact h.report _ | fail)
    | (dsimp only at e)
    | fail)

theorem NilOK.of_float (b : Nat) :
    NilOK (.FloatLiteral b) := by
  constructor
  intro x g' e
  have h : Grows x x := Grows.refl x
  rw [generateExpression_float_eq] at e
  try simp only [IRGenerator.NewAlloca, IRGenerator.NewLoad, IRGenerator.NewBin, IRGenerator.NewICmp, IRGenerator.NewFCmp, IRGenerator.NewGetElementPtr, IRGenerator.funcValue, NewCall_func, IRGenerator.NewCall, IRGenerator.NewZExt, IRGenerator.NewSelect, IRGenerator.NewBr, IRGenerator.NewCondBr, IRGenerator.NewRet, IRGenerator.NewUnreachable, IRGenerator.NewFunc, IRGenerator.NewGlobalDef] at e
  repeat' (first
    | (with_reducible first
        | (revert e; apply (hs.step ∘ ((Grows.refl _).NewInst)); done)
        | (revert e; apply (hs.step ∘ ((Grows.refl _).NewStore)); done)
        | (revert e; apply (hs.step ∘ ((Grows.refl _).NewTerm)); done)
        | (revert e; apply (hs.step ∘ ((Grows.refl _).NewBlock)); done)
        | (revert e; apply (hs.step ∘ ((Grows.refl _).generateExpression)); done)
        | (revert e; apply (hs.step ∘ ((Grows.refl _).appendPrologue)); done)
        | (revert e; apply (hs.step ∘ ((Grows.refl _).appendEpilogue)); done)
        | (revert e; apply (hs.step ∘ ((Grows.refl _).generateBoundsCheck)); done)
        | (revert e; apply (hs.step ∘ (Grows.appendElements (fun e _ => exprOK e) (Grows.refl _))); done)
        | (revert e; apply (hs.step ∘ (Grows.callArguments (fun e _ => exprOK e) (Grows.refl _))); done)
        | (revert e; apply (hs.step ∘ (Grows.printfArguments (fun e _ => exprOK e) (Grows.refl _))); done)
        | (revert e; apply (hs.step ∘ (Grows.arrayElements (fun e _ => exprOK e) (Grows.refl _))); done)
        | (revert e; apply (hs.step ∘ ((Grows.refl _).bindLiteralParameters)); done)
        | (revert e; apply (hs.step ∘ (Grows.generateBlockStatement (fun s _ => stmtOK s) (Grows.refl _))); done)
        | (revert e; apply (hs.step ∘ ((Grows.refl _).implicitReturn)); done)
        | (revert e; apply (hs.step ∘ ((Grows.refl _).brIfOpen)); done)
        | (revert e; apply (hs.step ∘ ((Grows.refl _).asResult)); done)
        | (revert e; apply (hs.step ∘ ((Grows.refl _).failWith)); done)
        | (revert e; apply (hs.step ∘ ((Grows.refl _).generateIdentifier)); done)
        | (revert e; apply (hs.step ∘ ((Grows.refl _).prefixOperator)); done)
        | (revert e; apply (hs.step ∘ ((Grows.refl _).generatePostfixExpression)); done)
        | (revert e; apply (hs.step ∘ ((Grows.refl _).generateStringConcatenation)); done)
        | (revert e; apply (hs.step ∘ ((Grows.refl _).infixOperator)); done)
        | (revert e; apply (hs.step ∘ ((Grows.refl _).indexAccess)); done)
        | (revert e; apply (hs.step ∘ ((Grows.refl _).lenOrCap)); done)
        | (revert e; apply (hs.step ∘ ((Grows.refl _).makeSlice)); done)
        | (revert e; apply (hs.step ∘ ((Grows.refl _).printfNoArguments)); done)
        | (revert e; apply (hs.step ∘ ((Grows.refl _).printfCall)); done)
        | (revert e; apply (hs.step ∘ (Grows.generateLenCall (fun e _ => exprOK e) (Grows.refl _))); done)
        | (revert e; apply (hs.step ∘ (Grows.generateCapCall (fun e _ => exprOK e) (Grows.refl _))); done)
        | (revert e; apply (hs.step ∘ (Grows.generateAppendCall (fun e _ => exprOK e) (Grows.refl _))); done)
        | (revert e; apply (hs.step ∘ (Grows.generateMakeCall (fun e _ => exprOK e) (Grows.refl _))); done)
        | (revert e; apply (hs.step ∘ (Grows.generateExitCall (fun e _ => exprOK e) (Grows.refl _))); done)
        | (revert e; apply (h.asResult_nil); done)
        | (revert e; apply (h.failWith_nil); done)
        | fail)
    | (apply stepWith e; (focus (with_reducible apply (@ite_ok _ _ _ _ _ _); done)); intro e2
       clear e
       rcases e2 with ⟨_, e⟩ | ⟨_, e⟩)
    | (simp only [bind_assoc, pure_bind] at e)
    | (rw [bind_ok] at e
       obtain ⟨⟨x1, g1⟩, e1, e⟩ := e
       try dsimp only at e
       first
         | (apply stepWith e1; (focus (with_reducible apply (hs.step ∘ ((Grows.refl _).NewInst)); done)); clear hs; intro hs)
         | (apply stepWith e1; (focus (with_reducible apply (hs.step ∘ ((Grows.refl _).NewStore)); done)); clear hs; intro hs)
         | (apply stepWith e1; (focus (with_reducible apply (hs.step ∘ ((Grows.refl _).NewTerm)); done)); clear hs; intro hs)
         | (apply stepWith e1; (focus (with_reducible apply (hs.step ∘ ((Grows.refl _).NewBlock)); done)); clear hs; intro hs)
         | (apply stepWith e1; (focus (with_reducible apply (hs.step ∘ ((Grows.refl _).generateExpression)); done)); clear hs; intro hs)
         | (apply stepWith e1; (focus (with_reducible apply (hs.step ∘ ((Grows.refl _).appendPrologue)); done)); clear hs; intro hs)
         | (apply stepWith e1; (focus (with_reducible apply (hs.step ∘ ((Grows.refl _).appendEpilogue)); done)); clear hs; intro hs)
         | (apply stepWith e1; (focus (with_reducible apply (hs.step ∘ ((Grows.refl _).generateBoundsCheck)); done)); clear hs; intro hs)
         | (apply stepWith e1; (focus (with_reducible apply (hs.step ∘ (Grows.appendElements (fun e _ => exprOK e) (Grows.refl _))); done)); clear hs; intro hs)
         | (apply stepWith e1; (focus (with_reducible apply (hs.step ∘ (Grows.callArguments (fun e _ => exprOK e) (Grows.refl _))); done)); clear hs; intro hs)
         | (apply stepWith e1; (focus (with_reducible apply (hs.step ∘ (Grows.printfArguments (fun e _ => exprOK e) (Grows.refl _))); done)); clear hs; intro hs)
         | (apply stepWith e1; (focus (with_reducible apply (hs.step ∘ (Grows.arrayElements (fun e _ => exprOK e) (Grows.refl _))); done)); clear hs; intro hs)
         | (apply stepWith e1; (focus (with_reducible apply (hs.step ∘ ((Grows.refl _).bindLiteralParameters)); done)); clear hs; intro hs)
         | (apply stepWith e1; (focus (with_reducible apply (hs.step ∘ (Grows.generateBlockStatement (fun s _ => stmtOK s) (Grows.refl _))); done)); clear hs; intro hs)
         | (apply stepWith e1; (focus (with_reducible apply (hs.step ∘ ((Grows.refl _).implicitReturn)); done)); clear hs; intro hs)
         | (apply stepWith e1; (focus (with_reducible apply (hs.step ∘ ((Grows.refl _).brIfOpen)); done)); clear hs; intro hs)
         | (apply stepWith e1; (focus (with_reducible apply (h.NewInst); done)); clear h; intro h)
         | (apply stepWith e1; (focus (with_reducible apply (h.NewStore); done)); clear h; intro h)
         | (apply stepWith e1; (focus (with_reducible apply (h.NewTerm); done)); clear h; intro h)
         | (apply stepWith e1; (focus (with_reducible apply (h.NewBlock); done)); clear h; intro h)
         | (apply stepWith e1; (focus (with_reducible apply (h.generateExpression); done)); clear h; intro h)
         | (apply stepWith e1; (focus (with_reducible apply (h.appendPrologue); done)); clear h; intro h)
         | (apply stepWith e1; (focus (with_reducible apply (h.appendEpilogue); done)); clear h; intro h)
         | (apply stepWith e1; (focus (with_reducible apply (h.generateBoundsCheck); done)); clear h; intro h)
         | (apply stepWith e1; (focus (with_reducible apply (Grows.appendElements (fun e _ => exprOK e) h); done)); clear h; intro h)
         | (apply stepWith e1; (focus (with_reducible apply (Grows.callArguments (fun e _ => exprOK e) h); done)); clear h; intro h)
         | (apply stepWith e1; (focus (with_reducible apply (Grows.printfArguments (fun e _ => exprOK e) h); done)); clear h; intro h)
         | (apply stepWith e1; (focus (with_reducible apply (Grows.arrayElements (fun e _ => exprOK e) h); done)); clear h; intro h)
         | (apply stepWith e1; (focus (with_reducible apply (h.bindLiteralParameters); done)); clear h; intro h)
         | (apply stepWith e1; (focus (with_reducible apply (Grows.generateBlockStatement (fun s _ => stmtOK s) h); done)); clear h; intro h)
         | (apply stepWith e1; (focus (with_reducible apply (h.implicitReturn); done)); clear h; intro h)
         | (apply stepWith e1; (focus (with_reducible apply (h.brIfOpen); done)); clear h; intro h)
         | (cases e1)
         | fail)
    | (split at e <;>
       try (rename_i heq
            first
              | (apply stepWith heq; (focus (with_reducible apply (hs.step ∘ ((Grows.refl _).getOrDeclare)); done)); clear hs; intro hs)
              | (apply stepWith heq; (focus (with_reducible apply (hs.step ∘ ((Grows.refl _).resolveCallee)); done)); clear hs; intro hs)
              | (apply stepWith heq; (focus (with_reducible apply (hs.step ∘ ((Grows.refl _).generateStringLiteral)); done)); clear hs; intro hs)
              | (apply stepWith heq; (focus (with_reducible apply (hs.step ∘ ((Grows.refl _).NewInst)); done)); clear hs; intro hs)
              | (apply stepWith heq; (focus (with_reducible apply (hs.step ∘ ((Grows.refl _).NewStore)); done)); clear hs; intro hs)
              | (apply stepWith heq; (focus (with_reducible apply (hs.step ∘ ((Grows.refl _).NewTerm)); done)); clear hs; intro hs)
              | (apply stepWith heq; (focus (with_reducible apply (hs.step ∘ ((Grows.refl _).NewBlock)); done)); clear hs; intro hs)
              | (apply stepWith heq; (focus (with_reducible apply (hs.step ∘ ((Grows.refl _).generateExpression)); done)); clear hs; intro hs)
              | (apply stepWith heq; (focus (with_reducible apply (hs.step ∘ ((Grows.refl _).appendPrologue)); done)); clear hs; intro hs)
              | (apply stepWith heq; (focus (with_reducible apply (hs.step ∘ ((Grows.refl _).appendEpilogue)); done)); clear hs; intro hs)
              | (apply stepWith heq; (focus (with_reducible apply (hs.step ∘ ((Grows.refl _).generateBoundsCheck)); done)); clear hs; intro hs)
              | (apply stepWith heq; (focus (with_reducible apply (hs.step ∘ (Grows.appendElements (fun e _ => exprOK e) (Grows.refl _))); done)); clear hs; intro hs)
              | (apply stepWith heq; (focus (with_reducible apply (hs.step ∘ (Grows.callArguments (fun e _ => exprOK e) (Grows.refl _))); done)); clear hs; intro hs)
              | (apply stepWith heq; (focus (with_reducible apply (hs.step ∘ (Grows.printfArguments (fun e _ => exprOK e) (Grows.refl _))); done)); clear hs; intro hs)
              | (apply stepWith heq; (focus (with_reducible apply (hs.step ∘ (Grows.arrayElements (fun e _ => exprOK e) (Grows.refl _))); done)); clear hs; intro hs)
              | (apply stepWith heq; (focus (with_reducible apply (hs.step ∘ ((Grows.refl _).bindLiteralParameters)); done)); clear hs; intro hs)
              | (apply stepWith heq; (focus (with_reducible apply (hs.step ∘ (Grows.generateBlockStatement (fun s _ => stmtOK s) (Grows.refl _))); done)); clear hs; intro hs)
              | (apply stepWith heq; (focus (with_reducible apply (hs.step ∘ ((Grows.refl _).implicitReturn)); done)); clear hs; intro hs)
              | (apply stepWith heq; (focus (with_reducible apply (hs.step ∘ ((Grows.refl _).brIfOpen)); done)); clear hs; intro hs)
              | (apply stepWith heq; (focus (with_reducible apply (h.getOrDeclare); done)); clear h; intro h)
              | (apply stepWith heq; (focus (with_reducible apply (h.resolveCallee); done)); clear h; intro h)
              | (apply stepWith heq; (focus (with_reducible apply (h.generateStringLiteral); done)); clear h; intro h)
              | (apply stepWith heq; (focus (with_reducible apply (h.NewInst); done)); clear h; intro h)
              | (apply stepWith heq; (focus (with_reducible apply (h.NewStore); done)); clear h; intro h)
              | (apply stepWith heq; (focus (with_reducible apply (h.NewTerm); done)); clear h; intro h)
              | (apply stepWith heq; (focus (with_reducible apply (h.NewBlock); done)); clear h; intro h)
              | (apply stepWith heq; (focus (with_reducible apply (h.generateExpression); done)); clear h; intro h)
              | (apply stepWith heq; (focus (with_reducible apply (h.appendPrologue); done)); clear h; intro h)
              | (apply stepWith heq; (focus (with_reducible apply (h.appendEpilogue); done)); clear h; intro h)
              | (apply stepWith heq; (focus (with_reducible apply (h.generateBoundsCheck); done)); clear h; intro h)
              | (apply stepWith heq; (focus (with_reducible apply (Grows.appendElements (fun e _ => exprOK e) h); done)); clear h; intro h)
              | (apply stepWith heq; (focus (with_reducible apply (Grows.callArguments (fun e _ => exprOK e) h); done)); clear h; intro h)
              | (apply stepWith heq; (focus (with_reducible apply (Grows.printfArguments (fun e _ => exprOK e) h); done)); clear h; intro h)
              | (apply stepWith heq; (focus (with_reducible apply (Grows.arrayElements (fun e _ => exprOK e) h); done)); clear h; intro h)
              | (apply stepWith heq; (focus (with_reducible apply (h.bindLiteralParameters); done)); clear h; intro h)
              | (apply stepWith heq; (focus (with_reducible apply (Grows.generateBlockStatement (fun s _ => stmtOK s) h); done)); clear h; intro h)
              | (apply stepWith heq; (focus (with_reducible apply (h.implicitReturn); done)); clear h; intro h)
              | (apply stepWith heq; (focus (with_reducible apply (h.brIfOpen); done)); clear h; intro h)
              | fail))
    | (cases e; first | done | exact hs.extend | exact h.report _ | fail)
    | (dsimp only at e)
    | fail)

theorem NilOK.of_string (v : String) :
    NilOK (.StringLiteral v) := by
  constructor
  intro x g' e
  have h : Grows x x := Grows.refl x
  rw [generateExpression_string_eq] at e
  try simp only [IRGenerator.NewAlloca, IRGenerator.NewLoad, IRGenerator.NewBin, IRGenerator.NewICmp, IRGenerator.NewFCmp, IRGenerator.NewGetElementPtr, IRGenerator.funcValue, NewCall_func, IRGenerator.NewCall, IRGenerator.NewZExt, IRGenerator.NewSelect, IRGenerator.NewBr, IRGenerator.NewCondBr, IRGenerator.NewRet, IRGenerator.NewUnreachable, IRGenerator.NewFunc, IRGenerator.NewGlobalDef] at e
  repeat' (first
    | (with_reducible first
        | (revert e; apply (hs.step ∘ ((Grows.refl _).NewInst)); done)
        | (revert e; apply (hs.step ∘ ((Grows.refl _).NewStore)); done)
        | (revert e; apply (hs.step ∘ ((Grows.refl _).NewTerm)); done)
        | (revert e; apply (hs.step ∘ ((Grows.refl _).NewBlock)); done)
        | (revert e; apply (hs.step ∘ ((Grows.refl _).generateExpression)); done)
        | (revert e; apply (hs.step ∘ ((Grows.refl _).appendPrologue)); done)
        | (revert e; apply (hs.step ∘ ((Grows.refl _).appendEpilogue)); done)
        | (revert e; apply (hs.step ∘ ((Grows.refl _).generateBoundsCheck)); done)
        | (revert e; apply (hs.step ∘ (Grows.appendElements (fun e _ => exprOK e) (Grows.refl _))); done)
        | (revert e; apply (hs.step ∘ (Grows.callArguments (fun e _ => exprOK e) (Grows.refl _))); done)
        | (revert e; apply (hs.step ∘ (Grows.printfArguments (fun e _ => exprOK e) (Grows.refl _))); done)
        | (revert e; apply (hs.step ∘ (Grows.arrayElements (fun e _ => exprOK e) (Grows.refl _))); done)
        | (revert e; apply (hs.step ∘ ((Grows.refl _).bindLiteralParameters)); done)
        | (revert e; apply (hs.step ∘ (Grows.generateBlockStatement (fun s _ => stmtOK s) (Grows.refl _))); done)
        | (revert e; apply (hs.step ∘ ((Grows.refl _).implicitReturn)); done)
        | (revert e; apply (hs.step ∘ ((Grows.refl _).brIfOpen)); done)
        | (revert e; apply (hs.step ∘ ((Grows.refl _).asResult)); done)
        | (revert e; apply (hs.step ∘ ((Grows.refl _).failWith)); done)
        | (revert e; apply (hs.step ∘ ((Grows.refl _).generateIdentifier)); done)
        | (revert e; apply (hs.step ∘ ((Grows.refl _).prefixOperator)); done)
        | (revert e; apply (hs.step ∘ ((Grows.refl _).generatePostfixExpression)); done)
        | (revert e; apply (hs.step ∘ ((Grows.refl _).generateStringConcatenation)); done)
        | (revert e; apply (hs.step ∘ ((Grows.refl _).infixOperator)); done)
        | (revert e; apply (hs.step ∘ ((Grows.refl _).indexAccess)); done)
        | (revert e; apply (hs.step ∘ ((Grows.refl _).lenOrCap)); done)
        | (revert e; apply (hs.step ∘ ((Grows.refl _).makeSlice)); done)
        | (revert e; apply (hs.step ∘ ((Grows.refl _).printfNoArguments)); done)
        | (revert e; apply (hs.step ∘ ((Grows.refl _).printfCall)); done)
        | (revert e; apply (hs.step ∘ (Grows.generateLenCall (fun e _ => exprOK e) (Grows.refl _))); done)
        | (revert e; apply (hs.step ∘ (Grows.generateCapCall (fun e _ => exprOK e) (Grows.refl _))); done)
        | (revert e; apply (hs.step ∘ (Grows.generateAppendCall (fun e _ => exprOK e) (Grows.refl _))); done)
        | (revert e; apply (hs.step ∘ (Grows.generateMakeCall (fun e _ => exprOK e) (Grows.refl _))); done)
        | (revert e; apply (hs.step ∘ (Grows.generateExitCall (fun e _ => exprOK e) (Grows.refl _))); done)
        | (revert e; apply (h.asResult_nil); done)
        | (revert e; apply (h.failWith_nil); done)
        | fail)
    | (apply stepWith e; (focus (with_reducible apply (@ite_ok _ _ _ _ _ _); done)); intro e2
       clear e
       rcases e2 with ⟨_, e⟩ | ⟨_, e⟩)
    | (simp only [bind_assoc, pure_bind] at e)
    | (rw [bind_ok] at e
       obtain ⟨⟨x1, g1⟩, e1, e⟩ := e
       try dsimp only at e
       first
         | (apply stepWith e1; (focus (with_reducible apply (hs.step ∘ ((Grows.refl _).NewInst)); done)); clear hs; intro hs)
         | (apply stepWith e1; (focus (with_reducible apply (hs.step ∘ ((Grows.refl _).NewStore)); done)); clear hs; intro hs)
         | (apply stepWith e1; (focus (with_reducible apply (hs.step ∘ ((Grows.refl _).NewTerm)); done)); clear hs; intro hs)
         | (apply stepWith e1; (focus (with_reducible apply (hs.step ∘ ((Grows.refl _).NewBlock)); done)); clear hs; intro hs)
         | (apply stepWith e1; (focus (with_reducible apply (hs.step ∘ ((Grows.refl _).generateExpression)); done)); clear hs; intro hs)
         | (apply stepWith e1; (focus (with_reducible apply (hs.step ∘ ((Grows.refl _).appendPrologue)); done)); clear hs; intro hs)
         | (apply stepWith e1; (focus (with_reducible apply (hs.step ∘ ((Grows.refl _).appendEpilogue)); done)); clear hs; intro hs)
         | (apply stepWith e1; (focus (with_reducible apply (hs.step ∘ ((Grows.refl _).generateBoundsCheck)); done)); clear hs; intro hs)
         | (apply stepWith e1; (focus (with_reducible apply (hs.step ∘ (Grows.appendElements (fun e _ => exprOK e) (Grows.refl _))); done)); clear hs; intro hs)
         | (apply stepWith e1; (focus (with_reducible apply (hs.step ∘ (Grows.callArguments (fun e _ => exprOK e) (Grows.refl _))); done)); clear hs; intro hs)
         | (apply stepWith e1; (focus (with_reducible apply (hs.step ∘ (Grows.printfArguments (fun e _ => exprOK e) (Grows.refl _))); done)); clear hs; intro hs)
         | (apply stepWith e1; (focus (with_reducible apply (hs.step ∘ (Grows.arrayElements (fun e _ => exprOK e) (Grows.refl _))); done)); clear hs; intro hs)
         | (apply stepWith e1; (focus (with_reducible apply (hs.step ∘ ((Grows.refl _).bindLiteralParameters)); done)); clear hs; intro hs)
         | (apply stepWith e1; (focus (with_reducible apply (hs.step ∘ (Grows.generateBlockStatement (fun s _ => stmtOK s) (Grows.refl _))); done)); clear hs; intro hs)
         | (apply stepWith e1; (focus (with_reducible apply (hs.step ∘ ((Grows.refl _).implicitReturn)); done)); clear hs; intro hs)
         | (apply stepWith e1; (focus (with_reducible apply (hs.step ∘ ((Grows.refl _).brIfOpen)); done)); clear hs; intro hs)
         | (apply stepWith e1; (focus (with_reducible apply (h.NewInst); done)); clear h; intro h)
         | (apply stepWith e1; (focus (with_reducible apply (h.NewStore); done)); clear h; intro h)
         | (apply stepWith e1; (focus (with_reducible apply (h.NewTerm); done)); clear h; intro h)
         | (apply stepWith e1; (focus (with_reducible apply (h.NewBlock); done)); clear h; intro h)
         | (apply stepWith e1; (focus (with_reducible apply (h.generateExpression); done)); clear h; intro h)
         | (apply stepWith e1; (focus (with_reducible apply (h.appendPrologue); done)); clear h; intro h)
         | (apply stepWith e1; (focus (with_reducible apply (h.appendEpilogue); done)); clear h; intro h)
         | (apply stepWith e1; (focus (with_reducible apply (h.generateBoundsCheck); done)); clear h; intro h)
         | (apply stepWith e1; (focus (with_reducible apply (Grows.appendElements (fun e _ => exprOK e) h); done)); clear h; intro h)
         | (apply stepWith e1; (focus (with_reducible apply (Grows.callArguments (fun e _ => exprOK e) h); done)); clear h; intro h)
         | (apply stepWith e1; (focus (with_reducible apply (Grows.printfArguments (fun e _ => exprOK e) h); done)); clear h; intro h)
         | (apply stepWith e1; (focus (with_reducible apply (Grows.arrayElements (fun e _ => exprOK e) h); done)); clear h; intro h)
         | (apply stepWith e1; (focus (with_reducible apply (h.bindLiteralParameters); done)); clear h; intro h)
         | (apply stepWith e1; (focus (with_reducible apply (Grows.generateBlockStatement (fun s _ => stmtOK s) h); done)); clear h; intro h)
         | (apply stepWith e1; (focus (with_reducible apply (h.implicitReturn); done)); clear h; intro h)
         | (apply stepWith e1; (focus (with_reducible apply (h.brIfOpen); done)); clear h; intro h)
         | (cases e1)
         | fail)
    | (split at e <;>
       try (rename_i heq
            first
              | (apply stepWith heq; (focus (with_reducible apply (hs.step ∘ ((Grows.refl _).getOrDeclare)); done)); clear hs; intro hs)
              | (apply stepWith heq; (focus (with_reducible apply (hs.step ∘ ((Grows.refl _).resolveCallee)); done)); clear hs; intro hs)
              | (apply stepWith heq; (focus (with_reducible apply (hs.step ∘ ((Grows.refl _).generateStringLiteral)); done)); clear hs; intro hs)
              | (apply stepWith heq; (focus (with_reducible apply (hs.step ∘ ((Grows.refl _).NewInst)); done)); clear hs; intro hs)
              | (apply stepWith heq; (focus (with_reducible apply (hs.step ∘ ((Grows.refl _).NewStore)); done)); clear hs; intro hs)
              | (apply stepWith heq; (focus (with_reducible apply (hs.step ∘ ((Grows.refl _).NewTerm)); done)); clear hs; intro hs)
              | (apply stepWith heq; (focus (with_reducible apply (hs.step ∘ ((Grows.refl _).NewBlock)); done)); clear hs; intro hs)
              | (apply stepWith heq; (focus (with_reducible apply (hs.step ∘ ((Grows.refl _).generateExpression)); done)); clear hs; intro hs)
              | (apply stepWith heq; (focus (with_reducible apply (hs.step ∘ ((Grows.refl _).appendPrologue)); done)); clear hs; intro hs)
              | (apply stepWith heq; (focus (with_reducible apply (hs.step ∘ ((Grows.refl _).appendEpilogue)); done)); clear hs; intro hs)
              | (apply stepWith heq; (focus (with_reducible apply (hs.step ∘ ((Grows.refl _).generateBoundsCheck)); done)); clear hs; intro hs)
              | (apply stepWith heq; (focus (with_reducible apply (hs.step ∘ (Grows.appendElements (fun e _ => exprOK e) (Grows.refl _))); done)); clear hs; intro hs)
              | (apply stepWith heq; (focus (with_reducible apply (hs.step ∘ (Grows.callArguments (fun e _ => exprOK e) (Grows.refl _))); done)); clear hs; intro hs)
              | (apply stepWith heq; (focus (with_reducible apply (hs.step ∘ (Grows.printfArguments (fun e _ => exprOK e) (Grows.refl _))); done)); clear hs; intro hs)
              | (apply stepWith heq; (focus (with_reducible apply (hs.step ∘ (Grows.arrayElements (fun e _ => exprOK e) (Grows.refl _))); done)); clear hs; intro hs)
              | (apply stepWith heq; (focus (with_reducible apply (hs.step ∘ ((Grows.refl _).bindLiteralParameters)); done)); clear hs; intro hs)
              | (apply stepWith heq; (focus (with_reducible apply (hs.step ∘ (Grows.generateBlockStatement (fun s _ => stmtOK s) (Grows.refl _))); done)); clear hs; intro hs)
              | (apply stepWith heq; (focus (with_reducible apply (hs.step ∘ ((Grows.refl _).implicitReturn)); done)); clear hs; intro hs)
              | (apply stepWith heq; (focus (with_reducible apply (hs.step ∘ ((Grows.refl _).brIfOpen)); done)); clear hs; intro hs)
              | (apply stepWith heq; (focus (with_reducible apply (h.getOrDeclare); done)); clear h; intro h)
              | (apply stepWith heq; (focus (with_reducible apply (h.resolveCallee); done)); clear h; intro h)
              | (apply stepWith heq; (focus (with_reducible apply (h.generateStringLiteral); done)); clear h; intro h)
              | (apply stepWith heq; (focus (with_reducible apply (h.NewInst); done)); clear h; intro h)
              | (apply stepWith heq; (focus (with_reducible apply (h.NewStore); done)); clear h; intro h)
              | (apply stepWith heq; (focus (with_reducible apply (h.NewTerm); done)); clear h; intro h)
              | (apply stepWith heq; (focus (with_reducible apply (h.NewBlock); done)); clear h; intro h)
              | (apply stepWith heq; (focus (with_reducible apply (h.generateExpression); done)); clear h; intro h)
              | (apply stepWith heq; (focus (with_reducible apply (h.appendPrologue); done)); clear h; intro h)
              | (apply stepWith heq; (focus (with_reducible apply (h.appendEpilogue); done)); clear h; intro h)
              | (apply stepWith heq; (focus (with_reducible apply (h.generateBoundsCheck); done)); clear h; intro h)
              | (apply stepWith heq; (focus (with_reducible apply (Grows.appendElements (fun e _ => exprOK e) h); done)); clear h; intro h)
              | (apply stepWith heq; (focus (with_reducible apply (Grows.callArguments (fun e _ => exprOK e) h); done)); clear h; intro h)
              | (apply stepWith heq; (focus (with_reducible apply (Grows.printfArguments (fun e _ => exprOK e) h); done)); clear h; intro h)
              | (apply stepWith heq; (focus (with_reducible apply (Grows.arrayElements (fun e _ => exprOK e) h); done)); clear h; intro h)
              | (apply stepWith heq; (focus (with_reducible apply (h.bindLiteralParameters); done)); clear h; intro h)
              | (apply stepWith heq; (focus (with_reducible apply (Grows.generateBlockStatement (fun s _ => stmtOK s) h); done)); clear h; intro h)
              | (apply stepWith heq; (focus (with_reducible apply (h.implicitReturn); done)); clear h; intro h)
              | (apply stepWith heq; (focus (with_reducible apply (h.brIfOpen); done)); clear h; intro h)
              | fail))
    | (cases e; first | done | exact hs.extend | exact h.report _ | fail)
    | (dsimp only at e)
    | fail)

theorem NilOK.of_boolean (v : Bool) :
    NilOK (.BooleanLiteral v) := by
  constructor
  intro x g' e
  have h : Grows x x := Grows.refl x
  rw [generateExpression_boolean_eq] at e
  try simp only [IRGenerator.NewAlloca, IRGenerator.NewLoad, IRGenerator.NewBin, IRGenerator.NewICmp, IRGenerator.NewFCmp, IRGenerator.NewGetElementPtr, IRGenerator.funcValue, NewCall_func, IRGenerator.NewCall, IRGenerator.NewZExt, IRGenerator.NewSelect, IRGenerator.NewBr, IRGenerator.NewCondBr, IRGenerator.NewRet, IRGenerator.NewUnreachable, IRGenerator.NewFunc, IRGenerator.NewGlobalDef] at e
  repeat' (first
    | (with_reducible first
        | (revert e; apply (hs.step ∘ ((Grows.refl _).NewInst)); done)
        | (revert e; apply (hs.step ∘ ((Grows.refl _).NewStore)); done)
        | (revert e; apply (hs.step ∘ ((Grows.refl _).NewTerm)); done)
        | (revert e; apply (hs.step ∘ ((Grows.refl _).NewBlock)); done)
        | (revert e; apply (hs.step ∘ ((Grows.refl _).generateExpression)); done)
        | (revert e; apply (hs.step ∘ ((Grows.refl _).appendPrologue)); done)
        | (revert e; apply (hs.step ∘ ((Grows.refl _).appendEpilogue)); done)
        | (revert e; apply (hs.step ∘ ((Grows.refl _).generateBoundsCheck)); done)
        | (revert e; apply (hs.step ∘ (Grows.appendElements (fun e _ => exprOK e) (Grows.refl _))); done)
        | (revert e; apply (hs.step ∘ (Grows.callArguments (fun e _ => exprOK e) (Grows.refl _))); done)
        | (revert e; apply (hs.step ∘ (Grows.printfArguments (fun e _ => exprOK e) (Grows.refl _))); done)
        | (revert e; apply (hs.step ∘ (Grows.arrayElements (fun e _ => exprOK e) (Grows.refl _))); done)
        | (revert e; apply (hs.step ∘ ((Grows.refl _).bindLiteralParameters)); done)
        | (revert e; apply (hs.step ∘ (Grows.generateBlockStatement (fun s _ => stmtOK s) (Grows.refl _))); done)
        | (revert e; apply (hs.step ∘ ((Grows.refl _).implicitReturn)); done)
        | (revert e; apply (hs.step ∘ ((Grows.refl _).brIfOpen)); done)
        | (revert e; apply (hs.step ∘ ((Grows.refl _).asResult)); done)
        | (revert e; apply (hs.step ∘ ((Grows.refl _).failWith)); done)
        | (revert e; apply (hs.step ∘ ((Grows.refl _).generateIdentifier)); done)
        | (revert e; apply (hs.step ∘ ((Grows.refl _).prefixOperator)); done)
        | (revert e; apply (hs.step ∘ ((Grows.refl _).generatePostfixExpression)); done)
        | (revert e; apply (hs.step ∘ ((Grows.refl _).generateStringConcatenation)); done)
        | (revert e; apply (hs.step ∘ ((Grows.refl _).infixOperator)); done)
        | (revert e; apply (hs.step ∘ ((Grows.refl _).indexAccess)); done)
        | (revert e; apply (hs.step ∘ ((Grows.refl _).lenOrCap)); done)
        | (revert e; apply (hs.step ∘ ((Grows.refl _).makeSlice)); done)
        | (revert e; apply (hs.step ∘ ((Grows.refl _).printfNoArguments)); done)
        | (revert e; apply (hs.step ∘ ((Grows.refl _).printfCall)); done)
        | (revert e; apply (hs.step ∘ (Grows.generateLenCall (fun e _ => exprOK e) (Grows.refl _))); done)
        | (revert e; apply (hs.step ∘ (Grows.generateCapCall (fun e _ => exprOK e) (Grows.refl _))); done)
        | (revert e; apply (hs.step ∘ (Grows.generateAppendCall (fun e _ => exprOK e) (Grows.refl _))); done)
        | (revert e; apply (hs.step ∘ (Grows.generateMakeCall (fun e _ => exprOK e) (Grows.refl _))); done)
        | (revert e; apply (hs.step ∘ (Grows.generateExitCall (fun e _ => exprOK e) (Grows.refl _))); done)
        | (revert e; apply (h.asResult_nil); done)
        | (revert e; apply (h.failWith_nil); done)
        | fail)
    | (apply stepWith e; (focus (with_reducible apply (@ite_ok _ _ _ _ _ _); done)); intro e2
       clear e
       rcases e2 with ⟨_, e⟩ | ⟨_, e⟩)
    | (simp only [bind_assoc, pure_bind] at e)
    | (rw [bind_ok] at e
       obtain ⟨⟨x1, g1⟩, e1, e⟩ := e
       try dsimp only at e
       first
         | (apply stepWith e1; (focus (with_reducible apply (hs.step ∘ ((Grows.refl _).NewInst)); done)); clear hs; intro hs)
         | (apply stepWith e1; (focus (with_reducible apply (hs.step ∘ ((Grows.refl _).NewStore)); done)); clear hs; intro hs)
         | (apply stepWith e1; (focus (with_reducible apply (hs.step ∘ ((Grows.refl _).NewTerm)); done)); clear hs; intro hs)
         | (apply stepWith e1; (focus (with_reducible apply (hs.step ∘ ((Grows.refl _).NewBlock)); done)); clear hs; intro hs)
         | (apply stepWith e1; (focus (with_reducible apply (hs.step ∘ ((Grows.refl _).generateExpression)); done)); clear hs; intro hs)
         | (apply stepWith e1; (focus (with_reducible apply (hs.step ∘ ((Grows.refl _).appendPrologue)); done)); clear hs; intro hs)
         | (apply stepWith e1; (focus (with_reducible apply (hs.step ∘ ((Grows.refl _).appendEpilogue)); done)); clear hs; intro hs)
         | (apply stepWith e1; (focus (with_reducible apply (hs.step ∘ ((Grows.refl _).generateBoundsCheck)); done)); clear hs; intro hs)
         | (apply stepWith e1; (focus (with_reducible apply (hs.step ∘ (Grows.appendElements (fun e _ => exprOK e) (Grows.refl _))); done)); clear hs; intro hs)
         | (apply stepWith e1; (focus (with_reducible apply (hs.step ∘ (Grows.callArguments (fun e _ => exprOK e) (Grows.refl _))); done)); clear hs; intro hs)
         | (apply stepWith e1; (focus (with_reducible apply (hs.step ∘ (Grows.printfArguments (fun e _ => exprOK e) (Grows.refl _))); done)); clear hs; intro hs)
         | (apply stepWith e1; (focus (with_reducible apply (hs.step ∘ (Grows.arrayElements (fun e _ => exprOK e) (Grows.refl _))); done)); clear hs; intro hs)
         | (apply stepWith e1; (focus (with_reducible apply (hs.step ∘ ((Grows.refl _).bindLiteralParameters)); done)); clear hs; intro hs)
         | (apply stepWith e1; (focus (with_reducible apply (hs.step ∘ (Grows.generateBlockStatement (fun s _ => stmtOK s) (Grows.refl _))); done)); clear hs; intro hs)
         | (apply stepWith e1; (focus (with_reducible apply (hs.step ∘ ((Grows.refl _).implicitReturn)); done)); clear hs; intro hs)
         | (apply stepWith e1; (focus (with_reducible apply (hs.step ∘ ((Grows.refl _).brIfOpen)); done)); clear hs; intro hs)
         | (apply stepWith e1; (focus (with_reducible apply (h.NewInst); done)); clear h; intro h)
         | (apply stepWith e1; (focus (with_reducible apply (h.NewStore); done)); clear h; intro h)
         | (apply stepWith e1; (focus (with_reducible apply (h.NewTerm); done)); clear h; intro h)
         | (apply stepWith e1; (focus (with_reducible apply (h.NewBlock); done)); clear h; intro h)
         | (apply stepWith e1; (focus (with_reducible apply (h.generateExpression); done)); clear h; intro h)
         | (apply stepWith e1; (focus (with_reducible apply (h.appendPrologue); done)); clear h; intro h)
         | (apply stepWith e1; (focus (with_reducible apply (h.appendEpilogue); done)); clear h; intro h)
         | (apply stepWith e1; (focus (with_reducible apply (h.generateBoundsCheck); done)); clear h; intro h)
         | (apply stepWith e1; (focus (with_reducible apply (Grows.appendElements (fun e _ => exprOK e) h); done)); clear h; intro h)
         | (apply stepWith e1; (focus (with_reducible apply (Grows.callArguments (fun e _ => exprOK e) h); done)); clear h; intro h)
         | (apply stepWith e1; (focus (with_reducible apply (Grows.printfArguments (fun e _ => exprOK e) h); done)); clear h; intro h)
         | (apply stepWith e1; (focus (with_reducible apply (Grows.arrayElements (fun e _ => exprOK e) h); done)); clear h; intro h)
         | (apply stepWith e1; (focus (with_reducible apply (h.bindLiteralParameters); done)); clear h; intro h)
         | (apply stepWith e1; (focus (with_reducible apply (Grows.generateBlockStatement (fun s _ => stmtOK s) h); done)); clear h; intro h)
         | (apply stepWith e1; (focus (with_reducible apply (h.implicitReturn); done)); clear h; intro h)
         | (apply stepWith e1; (focus (with_reducible apply (h.brIfOpen); done)); clear h; intro h)
         | (cases e1)
         | fail)
    | (split at e <;>
       try (rename_i heq
            first
              | (apply stepWith heq; (focus (with_reducible apply (hs.step ∘ ((Grows.refl _).getOrDeclare)); done)); clear hs; intro hs)
              | (apply stepWith heq; (focus (with_reducible apply (hs.step ∘ ((Grows.refl _).resolveCallee)); done)); clear hs; intro hs)
              | (apply stepWith heq; (focus (with_reducible apply (hs.step ∘ ((Grows.refl _).generateStringLiteral)); done)); clear hs; intro hs)
              | (apply stepWith heq; (focus (with_reducible apply (hs.step ∘ ((Grows.refl _).NewInst)); done)); clear hs; intro hs)
              | (apply stepWith heq; (focus (with_reducible apply (hs.step ∘ ((Grows.refl _).NewStore)); done)); clear hs; intro hs)
              | (apply stepWith heq; (focus (with_reducible apply (hs.step ∘ ((Grows.refl _).NewTerm)); done)); clear hs; intro hs)
              | (apply stepWith heq; (focus (with_reducible apply (hs.step ∘ ((Grows.refl _).NewBlock)); done)); clear hs; intro hs)
              | (apply stepWith heq; (focus (with_reducible apply (hs.step ∘ ((Grows.refl _).generateExpression)); done)); clear hs; intro hs)
              | (apply stepWith heq; (focus (with_reducible apply (hs.step ∘ ((Grows.refl _).appendPrologue)); done)); clear hs; intro hs)
              | (apply stepWith heq; (focus (with_reducible apply (hs.step ∘ ((Grows.refl _).appendEpilogue)); done)); clear hs; intro hs)
              | (apply stepWith heq; (focus (with_reducible apply (hs.step ∘ ((Grows.refl _).generateBoundsCheck)); done)); clear hs; intro hs)
              | (apply stepWith heq; (focus (with_reducible apply (hs.step ∘ (Grows.appendElements (fun e _ => exprOK e) (Grows.refl _))); done)); clear hs; intro hs)
              | (apply stepWith heq; (focus (with_reducible apply (hs.step ∘ (Grows.callArguments (fun e _ => exprOK e) (Grows.refl _))); done)); clear hs; intro hs)
              | (apply stepWith heq; (focus (with_reducible apply (hs.step ∘ (Grows.printfArguments (fun e _ => exprOK e) (Grows.refl _))); done)); clear hs; intro hs)
              | (apply stepWith heq; (focus (with_reducible apply (hs.step ∘ (Grows.arrayElements (fun e _ => exprOK e) (Grows.refl _))); done)); clear hs; intro hs)
              | (apply stepWith heq; (focus (with_reducible apply (hs.step ∘ ((Grows.refl _).bindLiteralParameters)); done)); clear hs; intro hs)
              | (apply stepWith heq; (focus (with_reducible apply (hs.step ∘ (Grows.generateBlockStatement (fun s _ => stmtOK s) (Grows.refl _))); done)); clear hs; intro hs)
              | (apply stepWith heq; (focus (with_reducible apply (hs.step ∘ ((Grows.refl _).implicitReturn)); done)); clear hs; intro hs)
              | (apply stepWith heq; (focus (with_reducible apply (hs.step ∘ ((Grows.refl _).brIfOpen)); done)); clear hs; intro hs)
              | (apply stepWith heq; (focus (with_reducible apply (h.getOrDeclare); done)); clear h; intro h)
              | (apply stepWith heq; (focus (with_reducible apply (h.resolveCallee); done)); clear h; intro h)
              | (apply stepWith heq; (focus (with_reducible apply (h.generateStringLiteral); done)); clear h; intro h)
              | (apply stepWith heq; (focus (with_reducible apply (h.NewInst); done)); clear h; intro h)
              | (apply stepWith heq; (focus (with_reducible apply (h.NewStore); done)); clear h; intro h)
              | (apply stepWith heq; (focus (with_reducible apply (h.NewTerm); done)); clear h; intro h)
              | (apply stepWith heq; (focus (with_reducible apply (h.NewBlock); done)); clear h; intro h)
              | (apply stepWith heq; (focus (with_reducible apply (h.generateExpression); done)); clear h; intro h)
              | (apply stepWith heq; (focus (with_reducible apply (h.appendPrologue); done)); clear h; intro h)
              | (apply stepWith heq; (focus (with_reducible apply (h.appendEpilogue); done)); clear h; intro h)
              | (apply stepWith heq; (focus (with_reducible apply (h.generateBoundsCheck); done)); clear h; intro h)
              | (apply stepWith heq; (focus (with_reducible apply (Grows.appendElements (fun e _ => exprOK e) h); done)); clear h; intro h)
              | (apply stepWith heq; (focus (with_reducible apply (Grows.callArguments (fun e _ => exprOK e) h); done)); clear h; intro h)
              | (apply stepWith heq; (focus (with_reducible apply (Grows.printfArguments (fun e _ => exprOK e) h); done)); clear h; intro h)
              | (apply stepWith heq; (focus (with_reducible apply (Grows.arrayElements (fun e _ => exprOK e) h); done)); clear h; intro h)
              | (apply stepWith heq; (focus (with_reducible apply (h.bindLiteralParameters); done)); clear h; intro h)
              | (apply stepWith heq; (focus (with_reducible apply (Grows.generateBlockStatement (fun s _ => stmtOK s) h); done)); clear h; intro h)
              | (apply stepWith heq; (focus (with_reducible apply (h.implicitReturn); done)); clear h; intro h)
              | (apply stepWith heq; (focus (with_reducible apply (h.brIfOpen); done)); clear h; intro h)
              | fail))
    | (cases e; first | done | exact hs.extend | exact h.report _ | fail)
    | (dsimp only at e)
    | fail)

theorem NilOK.of_prefix (op : String) {right : Expression} (ihr : NilOK right) :
    NilOK (.PrefixExpression op right) := by
  constructor
  intro x g' e
  have h : Grows x x := Grows.refl x
  rw [generateExpression_prefix_eq] at e
  try simp only [IRGenerator.NewAlloca, IRGenerator.NewLoad, IRGenerator.NewBin, IRGenerator.NewICmp, IRGenerator.NewFCmp, IRGenerator.NewGetElementPtr, IRGenerator.funcValue, NewCall_func, IRGenerator.NewCall, IRGenerator.NewZExt, IRGenerator.NewSelect, IRGenerator.NewBr, IRGenerator.NewCondBr, IRGenerator.NewRet, IRGenerator.NewUnreachable, IRGenerator.NewFunc, IRGenerator.NewGlobalDef] at e
  repeat' (first
    | (with_reducible first
        | (revert e; apply (hs.step ∘ ((Grows.refl _).NewInst)); done)
        | (revert e; apply (hs.step ∘ ((Grows.refl _).NewStore)); done)
        | (revert e; apply (hs.step ∘ ((Grows.refl _).NewTerm)); done)
        | (revert e; apply (hs.step ∘ ((Grows.refl _).NewBlock)); done)
        | (revert e; apply (hs.step ∘ ((Grows.refl _).generateExpression)); done)
        | (revert e; apply (hs.step ∘ ((Grows.refl _).appendPrologue)); done)
        | (revert e; apply (hs.step ∘ ((Grows.refl _).appendEpilogue)); done)
        | (revert e; apply (hs.step ∘ ((Grows.refl _).generateBoundsCheck)); done)
        | (revert e; apply (hs.step ∘ (Grows.appendElements (fun e _ => exprOK e) (Grows.refl _))); done)
        | (revert e; apply (hs.step ∘ (Grows.callArguments (fun e _ => exprOK e) (Grows.refl _))); done)
        | (revert e; apply (hs.step ∘ (Grows.printfArguments (fun e _ => exprOK e) (Grows.refl _))); done)
        | (revert e; apply (hs.step ∘ (Grows.arrayElements (fun e _ => exprOK e) (Grows.refl _))); done)
        | (revert e; apply (hs.step ∘ ((Grows.refl _).bindLiteralParameters)); done)
        | (revert e; apply (hs.step ∘ (Grows.generateBlockStatement (fun s _ => stmtOK s) (Grows.refl _))); done)
        | (revert e; apply (hs.step ∘ ((Grows.refl _).implicitReturn)); done)
        | (revert e; apply (hs.step ∘ ((Grows.refl _).brIfOpen)); done)
        | (revert e; apply (hs.step ∘ ((Grows.refl _).asResult)); done)
        | (revert e; apply (hs.step ∘ ((Grows.refl _).failWith)); done)
        | (revert e; apply (hs.step ∘ ((Grows.refl _).generateIdentifier)); done)
        | (revert e; apply (hs.step ∘ ((Grows.refl _).prefixOperator)); done)
        | (revert e; apply (hs.step ∘ ((Grows.refl _).generatePostfixExpression)); done)
        | (revert e; apply (hs.step ∘ ((Grows.refl _).generateStringConcatenation)); done)
        | (revert e; apply (hs.step ∘ ((Grows.refl _).infixOperator)); done)
        | (revert e; apply (hs.step ∘ ((Grows.refl _).indexAccess)); done)
        | (revert e; apply (hs.step ∘ ((Grows.refl _).lenOrCap)); done)
        | (revert e; apply (hs.step ∘ ((Grows.refl _).makeSlice)); done)
        | (revert e; apply (hs.step ∘ ((Grows.refl _).printfNoArguments)); done)
        | (revert e; apply (hs.step ∘ ((Grows.refl _).printfCall)); done)
        | (revert e; apply (hs.step ∘ (Grows.generateLenCall (fun e _ => exprOK e) (Grows.refl _))); done)
        | (revert e; apply (hs.step ∘ (Grows.generateCapCall (fun e _ => exprOK e) (Grows.refl _))); done)
        | (revert e; apply (hs.step ∘ (Grows.generateAppendCall (fun e _ => exprOK e) (Grows.refl _))); done)
        | (revert e; apply (hs.step ∘ (Grows.generateMakeCall (fun e _ => exprOK e) (Grows.refl _))); done)
        | (revert e; apply (hs.step ∘ (Grows.generateExitCall (fun e _ => exprOK e) (Grows.refl _))); done)
        | (revert e; apply (h.asResult_nil); done)
        | (revert e; apply (h.failWith_nil); done)
        | (revert e; apply (h.prefixOperator_nil); done)
        | (revert e; apply (h.strict ∘ (ihr.strict)); done)
        | fail)
    | (apply stepWith e; (focus (with_reducible apply (@ite_ok _ _ _ _ _ _); done)); intro e2
       clear e
       rcases e2 with ⟨_, e⟩ | ⟨_, e⟩)
    | (simp only [bind_assoc, pure_bind] at e)
    | (rw [bind_ok] at e
       obtain ⟨⟨x1, g1⟩, e1, e⟩ := e
       try dsimp only at e
       first
         | (apply stepWith e1; (focus (with_reducible apply (hs.step ∘ ((Grows.refl _).NewInst)); done)); clear hs; intro hs)
         | (apply stepWith e1; (focus (with_reducible apply (hs.step ∘ ((Grows.refl _).NewStore)); done)); clear hs; intro hs)
         | (apply stepWith e1; (focus (with_reducible apply (hs.step ∘ ((Grows.refl _).NewTerm)); done)); clear hs; intro hs)
         | (apply stepWith e1; (focus (with_reducible apply (hs.step ∘ ((Grows.refl _).NewBlock)); done)); clear hs; intro hs)
         | (apply stepWith e1; (focus (with_reducible apply (hs.step ∘ ((Grows.refl _).generateExpression)); done)); clear hs; intro hs)
         | (apply stepWith e1; (focus (with_reducible apply (hs.step ∘ ((Grows.refl _).appendPrologue)); done)); clear hs; intro hs)
         | (apply stepWith e1; (focus (with_reducible apply (hs.step ∘ ((Grows.refl _).appendEpilogue)); done)); clear hs; intro hs)
         | (apply stepWith e1; (focus (with_reducible apply (hs.step ∘ ((Grows.refl _).generateBoundsCheck)); done)); clear hs; intro hs)
         | (apply stepWith e1; (focus (with_reducible apply (hs.step ∘ (Grows.appendElements (fun e _ => exprOK e) (Grows.refl _))); done)); clear hs; intro hs)
         | (apply stepWith e1; (focus (with_reducible apply (hs.step ∘ (Grows.callArguments (fun e _ => exprOK e) (Grows.refl _))); done)); clear hs; intro hs)
         | (apply stepWith e1; (focus (with_reducible apply (hs.step ∘ (Grows.printfArguments (fun e _ => exprOK e) (Grows.refl _))); done)); clear hs; intro hs)
         | (apply stepWith e1; (focus (with_reducible apply (hs.step ∘ (Grows.arrayElements (fun e _ => exprOK e) (Grows.refl _))); done)); clear hs; intro hs)
         | (apply stepWith e1; (focus (with_reducible apply (hs.step ∘ ((Grows.refl _).bindLiteralParameters)); done)); clear hs; intro hs)
         | (apply stepWith e1; (focus (with_reducible apply (hs.step ∘ (Grows.generateBlockStatement (fun s _ => stmtOK s) (Grows.refl _))); done)); clear hs; intro hs)
         | (apply stepWith e1; (focus (with_reducible apply (hs.step ∘ ((Grows.refl _).implicitReturn)); done)); clear hs; intro hs)
         | (apply stepWith e1; (focus (with_reducible apply (hs.step ∘ ((Grows.refl _).brIfOpen)); done)); clear hs; intro hs)
         | (have hg := h.generateExpressionOf right e1
            rcases x1 with _ | v1 <;>
              first | (have hs := h.strict (ihr.strict e1)) | (replace h := hg))
         | (apply stepWith e1; (focus (with_reducible apply (h.NewInst); done)); clear h; intro h)
         | (apply stepWith e1; (focus (with_reducible apply (h.NewStore); done)); clear h; intro h)
         | (apply stepWith e1; (focus (with_reducible apply (h.NewTerm); done)); clear h; intro h)
         | (apply stepWith e1; (focus (with_reducible apply (h.NewBlock); done)); clear h; intro h)
         | (apply stepWith e1; (focus (with_reducible apply (h.generateExpression); done)); clear h; intro h)
         | (apply stepWith e1; (focus (with_reducible apply (h.appendPrologue); done)); clear h; intro h)
         | (apply stepWith e1; (focus (with_reducible apply (h.appendEpilogue); done)); clear h; intro h)
         | (apply stepWith e1; (focus (with_reducible apply (h.generateBoundsCheck); done)); clear h; intro h)
         | (apply stepWith e1; (focus (with_reducible apply (Grows.appendElements (fun e _ => exprOK e) h); done)); clear h; intro h)
         | (apply stepWith e1; (focus (with_reducible apply (Grows.callArguments (fun e _ => exprOK e) h); done)); clear h; intro h)
         | (apply stepWith e1; (focus (with_reducible apply (Grows.printfArguments (fun e _ => exprOK e) h); done)); clear h; intro h)
         | (apply stepWith e1; (focus (with_reducible apply (Grows.arrayElements (fun e _ => exprOK e) h); done)); clear h; intro h)
         | (apply stepWith e1; (focus (with_reducible apply (h.bindLiteralParameters); done)); clear h; intro h)
         | (apply stepWith e1; (focus (with_reducible apply (Grows.generateBlockStatement (fun s _ => stmtOK s) h); done)); clear h; intro h)
         | (apply stepWith e1; (focus (with_reducible apply (h.implicitReturn); done)); clear h; intro h)
         | (apply stepWith e1; (focus (with_reducible apply (h.brIfOpen); done)); clear h; intro h)
         | (cases e1)
         | fail)
    | (split at e <;>
       try (rename_i heq
            first
              | (apply stepWith heq; (focus (with_reducible apply (hs.step ∘ ((Grows.refl _).getOrDeclare)); done)); clear hs; intro hs)
              | (apply stepWith heq; (focus (with_reducible apply (hs.step ∘ ((Grows.refl _).resolveCallee)); done)); clear hs; intro hs)
              | (apply stepWith heq; (focus (with_reducible apply (hs.step ∘ ((Grows.refl _).generateStringLiteral)); done)); clear hs; intro hs)
              | (apply stepWith heq; (focus (with_reducible apply (hs.step ∘ ((Grows.refl _).NewInst)); done)); clear hs; intro hs)
              | (apply stepWith heq; (focus (with_reducible apply (hs.step ∘ ((Grows.refl _).NewStore)); done)); clear hs; intro hs)
              | (apply stepWith heq; (focus (with_reducible apply (hs.step ∘ ((Grows.refl _).NewTerm)); done)); clear hs; intro hs)
              | (apply stepWith heq; (focus (with_reducible apply (hs.step ∘ ((Grows.refl _).NewBlock)); done)); clear hs; intro hs)
              | (apply stepWith heq; (focus (with_reducible apply (hs.step ∘ ((Grows.refl _).generateExpression)); done)); clear hs; intro hs)
              | (apply stepWith heq; (focus (with_reducible apply (hs.step ∘ ((Grows.refl _).appendPrologue)); done)); clear hs; intro hs)
              | (apply stepWith heq; (focus (with_reducible apply (hs.step ∘ ((Grows.refl _).appendEpilogue)); done)); clear hs; intro hs)
              | (apply stepWith heq; (focus (with_reducible apply (hs.step ∘ ((Grows.refl _).generateBoundsCheck)); done)); clear hs; intro hs)
              | (apply stepWith heq; (focus (with_reducible apply (hs.step ∘ (Grows.appendElements (fun e _ => exprOK e) (Grows.refl _))); done)); clear hs; intro hs)
              | (apply stepWith heq; (focus (with_reducible apply (hs.step ∘ (Grows.callArguments (fun e _ => exprOK e) (Grows.refl _))); done)); clear hs; intro hs)
              | (apply stepWith heq; (focus (with_reducible apply (hs.step ∘ (Grows.printfArguments (fun e _ => exprOK e) (Grows.refl _))); done)); clear hs; intro hs)
              | (apply stepWith heq; (focus (with_reducible apply (hs.step ∘ (Grows.arrayElements (fun e _ => exprOK e) (Grows.refl _))); done)); clear hs; intro hs)
              | (apply stepWith heq; (focus (with_reducible apply (hs.step ∘ ((Grows.refl _).bindLiteralParameters)); done)); clear hs; intro hs)
              | (apply stepWith heq; (focus (with_reducible apply (hs.step ∘ (Grows.generateBlockStatement (fun s _ => stmtOK s) (Grows.refl _))); done)); clear hs; intro hs)
              | (apply stepWith heq; (focus (with_reducible apply (hs.step ∘ ((Grows.refl _).implicitReturn)); done)); clear hs; intro hs)
              | (apply stepWith heq; (focus (with_reducible apply (hs.step ∘ ((Grows.refl _).brIfOpen)); done)); clear hs; intro hs)
              | (apply stepWith heq; (focus (with_reducible apply (h.getOrDeclare); done)); clear h; intro h)
              | (apply stepWith heq; (focus (with_reducible apply (h.resolveCallee); done)); clear h; intro h)
              | (apply stepWith heq; (focus (with_reducible apply (h.generateStringLiteral); done)); clear h; intro h)
              | (apply stepWith heq; (focus (with_reducible apply (h.NewInst); done)); clear h; intro h)
              | (apply stepWith heq; (focus (with_reducible apply (h.NewStore); done)); clear h; intro h)
              | (apply stepWith heq; (focus (with_reducible apply (h.NewTerm); done)); clear h; intro h)
              | (apply stepWith heq; (focus (with_reducible apply (h.NewBlock); done)); clear h; intro h)
              | (apply stepWith heq; (focus (with_reducible apply (h.generateExpression); done)); clear h; intro h)
              | (apply stepWith heq; (focus (with_reducible apply (h.appendPrologue); done)); clear h; intro h)
              | (apply stepWith heq; (focus (with_reducible apply (h.appendEpilogue); done)); clear h; intro h)
              | (apply stepWith heq; (focus (with_reducible apply (h.generateBoundsCheck); done)); clear h; intro h)
              | (apply stepWith heq; (focus (with_reducible apply (Grows.appendElements (fun e _ => exprOK e) h); done)); clear h; intro h)
              | (apply stepWith heq; (focus (with_reducible apply (Grows.callArguments (fun e _ => exprOK e) h); done)); clear h; intro h)
              | (apply stepWith heq; (focus (with_reducible apply (Grows.printfArguments (fun e _ => exprOK e) h); done)); clear h; intro h)
              | (apply stepWith heq; (focus (with_reducible apply (Grows.arrayElements (fun e _ => exprOK e) h); done)); clear h; intro h)
              | (apply stepWith heq; (focus (with_reducible apply (h.bindLiteralParameters); done)); clear h; intro h)
              | (apply stepWith heq; (focus (with_reducible apply (Grows.generateBlockStatement (fun s _ => stmtOK s) h); done)); clear h; intro h)
              | (apply stepWith heq; (focus (with_reducible apply (h.implicitReturn); done)); clear h; intro h)
              | (apply stepWith heq; (focus (with_reducible apply (h.brIfOpen); done)); clear h; intro h)
              | fail))
    | (cases e; first | done | exact hs.extend | exact h.report _ | fail)
    | (dsimp only at e)
    | fail)

theorem NilOK.of_infix {left : Expression} (op : String) {right : Expression} (ihl : NilOK left) (ihr : NilOK right) :
    NilOK (.InfixExpression left op right) := by
  constructor
  intro x g' e
  have h : Grows x x := Grows.refl x
  rw [generateExpression_infix_eq] at e
  try simp only [IRGenerator.NewAlloca, IRGenerator.NewLoad, IRGenerator.NewBin, IRGenerator.NewICmp, IRGenerator.NewFCmp, IRGenerator.NewGetElementPtr, IRGenerator.funcValue, NewCall_func, IRGenerator.NewCall, IRGenerator.NewZExt, IRGenerator.NewSelect, IRGenerator.NewBr, IRGenerator.NewCondBr, IRGenerator.NewRet, IRGenerator.NewUnreachable, IRGenerator.NewFunc, IRGenerator.NewGlobalDef] at e
  repeat' (first
    | (with_reducible first
        | (revert e; apply (hs.step ∘ ((Grows.refl _).NewInst)); done)
        | (revert e; apply (hs.step ∘ ((Grows.refl _).NewStore)); done)
        | (revert e; apply (hs.step ∘ ((Grows.refl _).NewTerm)); done)
        | (revert e; apply (hs.step ∘ ((Grows.refl _).NewBlock)); done)
        | (revert e; apply (hs.step ∘ ((Grows.refl _).generateExpression)); done)
        | (revert e; apply (hs.step ∘ ((Grows.refl _).appendPrologue)); done)
        | (revert e; apply (hs.step ∘ ((Grows.refl _).appendEpilogue)); done)
        | (revert e; apply (hs.step ∘ ((Grows.refl _).generateBoundsCheck)); done)
        | (revert e; apply (hs.step ∘ (Grows.appendElements (fun e _ => exprOK e) (Grows.refl _))); done)
        | (revert e; apply (hs.step ∘ (Grows.callArguments (fun e _ => exprOK e) (Grows.refl _))); done)
        | (revert e; apply (hs.step ∘ (Grows.printfArguments (fun e _ => exprOK e) (Grows.refl _))); done)
        | (revert e; apply (hs.step ∘ (Grows.arrayElements (fun e _ => exprOK e) (Grows.refl _))); done)
        | (revert e; apply (hs.step ∘ ((Grows.refl _).bindLiteralParameters)); done)
        | (revert e; apply (hs.step ∘ (Grows.generateBlockStatement (fun s _ => stmtOK s) (Grows.refl _))); done)
        | (revert e; apply (hs.step ∘ ((Grows.refl _).implicitReturn)); done)
        | (revert e; apply (hs.step ∘ ((Grows.refl _).brIfOpen)); done)
        | (revert e; apply (hs.step ∘ ((Grows.refl _).asResult)); done)
        | (revert e; apply (hs.step ∘ ((Grows.refl _).failWith)); done)
        | (revert e; apply (hs.step ∘ ((Grows.refl _).generateIdentifier)); done)
        | (revert e; apply (hs.step ∘ ((Grows.refl _).prefixOperator)); done)
        | (revert e; apply (hs.step ∘ ((Grows.refl _).generatePostfixExpression)); done)
        | (revert e; apply (hs.step ∘ ((Grows.refl _).generateStringConcatenation)); done)
        | (revert e; apply (hs.step ∘ ((Grows.refl _).infixOperator)); done)
        | (revert e; apply (hs.step ∘ ((Grows.refl _).indexAccess)); done)
        | (revert e; apply (hs.step ∘ ((Grows.refl _).lenOrCap)); done)
        | (revert e; apply (hs.step ∘ ((Grows.refl _).makeSlice)); done)
        | (revert e; apply (hs.step ∘ ((Grows.refl _).printfNoArguments)); done)
        | (revert e; apply (hs.step ∘ ((Grows.refl _).printfCall)); done)
        | (revert e; apply (hs.step ∘ (Grows.generateLenCall (fun e _ => exprOK e) (Grows.refl _))); done)
        | (revert e; apply (hs.step ∘ (Grows.generateCapCall (fun e _ => exprOK e) (Grows.refl _))); done)
        | (revert e; apply (hs.step ∘ (Grows.generateAppendCall (fun e _ => exprOK e) (Grows.refl _))); done)
        | (revert e; apply (hs.step ∘ (Grows.generateMakeCall (fun e _ => exprOK e) (Grows.refl _))); done)
        | (revert e; apply (hs.step ∘ (Grows.generateExitCall (fun e _ => exprOK e) (Grows.refl _))); done)
        | (revert e; apply (h.asResult_nil); done)
        | (revert e; apply (h.failWith_nil); done)
        | (revert e; apply (h.infixOperator_nil); done)
        | (revert e; apply (h.strict ∘ (ihl.strict)); done)
        | (revert e; apply (h.strict ∘ (ihr.strict)); done)
        | fail)
    | (apply stepWith e; (focus (with_reducible apply (@ite_ok _ _ _ _ _ _); done)); intro e2
       clear e
       rcases e2 with ⟨_, e⟩ | ⟨_, e⟩)
    | (simp only [bind_assoc, pure_bind] at e)
    | (rw [bind_ok] at e
       obtain ⟨⟨x1, g1⟩, e1, e⟩ := e
       try dsimp only at e
       first
         | (apply stepWith e1; (focus (with_reducible apply (hs.step ∘ ((Grows.refl _).NewInst)); done)); clear hs; intro hs)
         | (apply stepWith e1; (focus (with_reducible apply (hs.step ∘ ((Grows.refl _).NewStore)); done)); clear hs; intro hs)
         | (apply stepWith e1; (focus (with_reducible apply (hs.step ∘ ((Grows.refl _).NewTerm)); done)); clear hs; intro hs)
         | (apply stepWith e1; (focus (with_reducible apply (hs.step ∘ ((Grows.refl _).NewBlock)); done)); clear hs; intro hs)
         | (apply stepWith e1; (focus (with_reducible apply (hs.step ∘ ((Grows.refl _).generateExpression)); done)); clear hs; intro hs)
         | (apply stepWith e1; (focus (with_reducible apply (hs.step ∘ ((Grows.refl _).appendPrologue)); done)); clear hs; intro hs)
         | (apply stepWith e1; (focus (with_reducible apply (hs.step ∘ ((Grows.refl _).appendEpilogue)); done)); clear hs; intro hs)
         | (apply stepWith e1; (focus (with_reducible apply (hs.step ∘ ((Grows.refl _).generateBoundsCheck)); done)); clear hs; intro hs)
         | (apply stepWith e1; (focus (with_reducible apply (hs.step ∘ (Grows.appendElements (fun e _ => exprOK e) (Grows.refl _))); done)); clear hs; intro hs)
         | (apply stepWith e1; (focus (with_reducible apply (hs.step ∘ (Grows.callArguments (fun e _ => exprOK e) (Grows.refl _))); done)); clear hs; intro hs)
         | (apply stepWith e1; (focus (with_reducible apply (hs.step ∘ (Grows.printfArguments (fun e _ => exprOK e) (Grows.refl _))); done)); clear hs; intro hs)
         | (apply stepWith e1; (focus (with_reducible apply (hs.step ∘ (Grows.arrayElements (fun e _ => exprOK e) (Grows.refl _))); done)); clear hs; intro hs)
         | (apply stepWith e1; (focus (with_reducible apply (hs.step ∘ ((Grows.refl _).bindLiteralParameters)); done)); clear hs; intro hs)
         | (apply stepWith e1; (focus (with_reducible apply (hs.step ∘ (Grows.generateBlockStatement (fun s _ => stmtOK s) (Grows.refl _))); done)); clear hs; intro hs)
         | (apply stepWith e1; (focus (with_reducible apply (hs.step ∘ ((Grows.refl _).implicitReturn)); done)); clear hs; intro hs)
         | (apply stepWith e1; (focus (with_reducible apply (hs.step ∘ ((Grows.refl _).brIfOpen)); done)); clear hs; intro hs)
         | (have hg := h.generateExpressionOf left e1
            rcases x1 with _ | v1 <;>
              first | (have hs := h.strict (ihl.strict e1)) | (replace h := hg))
         | (have hg := h.generateExpressionOf right e1
            rcases x1 with _ | v1 <;>
              first | (have hs := h.strict (ihr.strict e1)) | (replace h := hg))
         | (apply stepWith e1; (focus (with_reducible apply (h.NewInst); done)); clear h; intro h)
         | (apply stepWith e1; (focus (with_reducible apply (h.NewStore); done)); clear h; intro h)
         | (apply stepWith e1; (focus (with_reducible apply (h.NewTerm); done)); clear h; intro h)
         | (apply stepWith e1; (focus (with_reducible apply (h.NewBlock); done)); clear h; intro h)
         | (apply stepWith e1; (focus (with_reducible apply (h.generateExpression); done)); clear h; intro h)
         | (apply stepWith e1; (focus (with_reducible apply (h.appendPrologue); done)); clear h; intro h)
         | (apply stepWith e1; (focus (with_reducible apply (h.appendEpilogue); done)); clear h; intro h)
         | (apply stepWith e1; (focus (with_reducible apply (h.generateBoundsCheck); done)); clear h; intro h)
         | (apply stepWith e1; (focus (with_reducible apply (Grows.appendElements (fun e _ => exprOK e) h); done)); clear h; intro h)
         | (apply stepWith e1; (focus (with_reducible apply (Grows.callArguments (fun e _ => exprOK e) h); done)); clear h; intro h)
         | (apply stepWith e1; (focus (with_reducible apply (Grows.printfArguments (fun e _ => exprOK e) h); done)); clear h; intro h)
         | (apply stepWith e1; (focus (with_reducible apply (Grows.arrayElements (fun e _ => exprOK e) h); done)); clear h; intro h)
         | (apply stepWith e1; (focus (with_reducible apply (h.bindLiteralParameters); done)); clear h; intro h)
         | (apply stepWith e1; (focus (with_reducible apply (Grows.generateBlockStatement (fun s _ => stmtOK s) h); done)); clear h; intro h)
         | (apply stepWith e1; (focus (with_reducible apply (h.implicitReturn); done)); clear h; intro h)
         | (apply stepWith e1; (focus (with_reducible apply (h.brIfOpen); done)); clear h; intro h)
         | (cases e1)
         | fail)
    | (split at e <;>
       try (rename_i heq
            first
              | (apply stepWith heq; (focus (with_reducible apply (hs.step ∘ ((Grows.refl _).getOrDeclare)); done)); clear hs; intro hs)
              | (apply stepWith heq; (focus (with_reducible apply (hs.step ∘ ((Grows.refl _).resolveCallee)); done)); clear hs; intro hs)
              | (apply stepWith heq; (focus (with_reducible apply (hs.step ∘ ((Grows.refl _).generateStringLiteral)); done)); clear hs; intro hs)
              | (apply stepWith heq; (focus (with_reducible apply (hs.step ∘ ((Grows.refl _).NewInst)); done)); clear hs; intro hs)
              | (apply stepWith heq; (focus (with_reducible apply (hs.step ∘ ((Grows.refl _).NewStore)); done)); clear hs; intro hs)
              | (apply stepWith heq; (focus (with_reducible apply (hs.step ∘ ((Grows.refl _).NewTerm)); done)); clear hs; intro hs)
              | (apply stepWith heq; (focus (with_reducible apply (hs.step ∘ ((Grows.refl _).NewBlock)); done)); clear hs; intro hs)
              | (apply stepWith heq; (focus (with_reducible apply (hs.step ∘ ((Grows.refl _).generateExpression)); done)); clear hs; intro hs)
              | (apply stepWith heq; (focus (with_reducible apply (hs.step ∘ ((Grows.refl _).appendPrologue)); done)); clear hs; intro hs)
              | (apply stepWith heq; (focus (with_reducible apply (hs.step ∘ ((Grows.refl _).appendEpilogue)); done)); clear hs; intro hs)
              | (apply stepWith heq; (focus (with_reducible apply (hs.step ∘ ((Grows.refl _).generateBoundsCheck)); done)); clear hs; intro hs)
              | (apply stepWith heq; (focus (with_reducible apply (hs.step ∘ (Grows.appendElements (fun e _ => exprOK e) (Grows.refl _))); done)); clear hs; intro hs)
              | (apply stepWith heq; (focus (with_reducible apply (hs.step ∘ (Grows.callArguments (fun e _ => exprOK e) (Grows.refl _))); done)); clear hs; intro hs)
              | (apply stepWith heq; (focus (with_reducible apply (hs.step ∘ (Grows.printfArguments (fun e _ => exprOK e) (Grows.refl _))); done)); clear hs; intro hs)
              | (apply stepWith heq; (focus (with_reducible apply (hs.step ∘ (Grows.arrayElements (fun e _ => exprOK e) (Grows.refl _))); done)); clear hs; intro hs)
              | (apply stepWith heq; (focus (with_reducible apply (hs.step ∘ ((Grows.refl _).bindLiteralParameters)); done)); clear hs; intro hs)
              | (apply stepWith heq; (focus (with_reducible apply (hs.step ∘ (Grows.generateBlockStatement (fun s _ => stmtOK s) (Grows.refl _))); done)); clear hs; intro hs)
              | (apply stepWith heq; (focus (with_reducible apply (hs.step ∘ ((Grows.refl _).implicitReturn)); done)); clear hs; intro hs)
              | (apply stepWith heq; (focus (with_reducible apply (hs.step ∘ ((Grows.refl _).brIfOpen)); done)); clear hs; intro hs)
              | (apply stepWith heq; (focus (with_reducible apply (h.getOrDeclare); done)); clear h; intro h)
              | (apply stepWith heq; (focus (with_reducible apply (h.resolveCallee); done)); clear h; intro h)
              | (apply stepWith heq; (focus (with_reducible apply (h.generateStringLiteral); done)); clear h; intro h)
              | (apply stepWith heq; (focus (with_reducible apply (h.NewInst); done)); clear h; intro h)
              | (apply stepWith heq; (focus (with_reducible apply (h.NewStore); done)); clear h; intro h)
              | (apply stepWith heq; (focus (with_reducible apply (h.NewTerm); done)); clear h; intro h)
              | (apply stepWith heq; (focus (with_reducible apply (h.NewBlock); done)); clear h; intro h)
              | (apply stepWith heq; (focus (with_reducible apply (h.generateExpression); done)); clear h; intro h)
              | (apply stepWith heq; (focus (with_reducible apply (h.appendPrologue); done)); clear h; intro h)
              | (apply stepWith heq; (focus (with_reducible apply (h.appendEpilogue); done)); clear h; intro h)
              | (apply stepWith heq; (focus (with_reducible apply (h.generateBoundsCheck); done)); clear h; intro h)
              | (apply stepWith heq; (focus (with_reducible apply (Grows.appendElements (fun e _ => exprOK e) h); done)); clear h; intro h)
              | (apply stepWith heq; (focus (with_reducible apply (Grows.callArguments (fun e _ => exprOK e) h); done)); clear h; intro h)
              | (apply stepWith heq; (focus (with_reducible apply (Grows.printfArguments (fun e _ => exprOK e) h); done)); clear h; intro h)
              | (apply stepWith heq; (focus (with_reducible apply (Grows.arrayElements (fun e _ => exprOK e) h); done)); clear h; intro h)
              | (apply stepWith heq; (focus (with_reducible apply (h.bindLiteralParameters); done)); clear h; intro h)
              | (apply stepWith heq; (focus (with_reducible apply (Grows.generateBlockStatement (fun s _ => stmtOK s) h); done)); clear h; intro h)
              | (apply stepWith heq; (focus (with_reducible apply (h.implicitReturn); done)); clear h; intro h)
              | (apply stepWith heq; (focus (with_reducible apply (h.brIfOpen); done)); clear h; intro h)
              | fail))
    | (cases e; first | done | exact hs.extend | exact h.report _ | fail)
    | (dsimp only at e)
    | fail)

theorem NilOK.of_postfix (left : Expression) (op : String) :
    NilOK (.PostfixExpression left op) := by
  constructor
  intro x g' e
  have h : Grows x x := Grows.refl x
  rw [generateExpression_postfix_eq] at e
  try simp only [IRGenerator.NewAlloca, IRGenerator.NewLoad, IRGenerator.NewBin, IRGenerator.NewICmp, IRGenerator.NewFCmp, IRGenerator.NewGetElementPtr, IRGenerator.funcValue, NewCall_func, IRGenerator.NewCall, IRGenerator.NewZExt, IRGenerator.NewSelect, IRGenerator.NewBr, IRGenerator.NewCondBr, IRGenerator.NewRet, IRGenerator.NewUnreachable, IRGenerator.NewFunc, IRGenerator.NewGlobalDef] at e
  repeat' (first
    | (with_reducible first
        | (revert e; apply (hs.step ∘ ((Grows.refl _).NewInst)); done)
        | (revert e; apply (hs.step ∘ ((Grows.refl _).NewStore)); done)
        | (revert e; apply (hs.step ∘ ((Grows.refl _).NewTerm)); done)
        | (revert e; apply (hs.step ∘ ((Grows.refl _).NewBlock)); done)
        | (revert e; apply (hs.step ∘ ((Grows.refl _).generateExpression)); done)
        | (revert e; apply (hs.step ∘ ((Grows.refl _).appendPrologue)); done)
        | (revert e; apply (hs.step ∘ ((Grows.refl _).appendEpilogue)); done)
        | (revert e; apply (hs.step ∘ ((Grows.refl _).generateBoundsCheck)); done)
        | (revert e; apply (hs.step ∘ (Grows.appendElements (fun e _ => exprOK e) (Grows.refl _))); done)
        | (revert e; apply (hs.step ∘ (Grows.callArguments (fun e _ => exprOK e) (Grows.refl _))); done)
        | (revert e; apply (hs.step ∘ (Grows.printfArguments (fun e _ => exprOK e) (Grows.refl _))); done)
        | (revert e; apply (hs.step ∘ (Grows.arrayElements (fun e _ => exprOK e) (Grows.refl _))); done)
        | (revert e; apply (hs.step ∘ ((Grows.refl _).bindLiteralParameters)); done)
        | (revert e; apply (hs.step ∘ (Grows.generateBlockStatement (fun s _ => stmtOK s) (Grows.refl _))); done)
        | (revert e; apply (hs.step ∘ ((Grows.refl _).implicitReturn)); done)
        | (revert e; apply (hs.step ∘ ((Grows.refl _).brIfOpen)); done)
        | (revert e; apply (hs.step ∘ ((Grows.refl _).asResult)); done)
        | (revert e; apply (hs.step ∘ ((Grows.refl _).failWith)); done)
        | (revert e; apply (hs.step ∘ ((Grows.refl _).generateIdentifier)); done)
        | (revert e; apply (hs.step ∘ ((Grows.refl _).prefixOperator)); done)
        | (revert e; apply (hs.step ∘ ((Grows.refl _).generatePostfixExpression)); done)
        | (revert e; apply (hs.step ∘ ((Grows.refl _).generateStringConcatenation)); done)
        | (revert e; apply (hs.step ∘ ((Grows.refl _).infixOperator)); done)
        | (revert e; apply (hs.step ∘ ((Grows.refl _).indexAccess)); done)
        | (revert e; apply (hs.step ∘ ((Grows.refl _).lenOrCap)); done)
        | (revert e; apply (hs.step ∘ ((Grows.refl _).makeSlice)); done)
        | (revert e; apply (hs.step ∘ ((Grows.refl _).printfNoArguments)); done)
        | (revert e; apply (hs.step ∘ ((Grows.refl _).printfCall)); done)
        | (revert e; apply (hs.step ∘ (Grows.generateLenCall (fun e _ => exprOK e) (Grows.refl _))); done)
        | (revert e; apply (hs.step ∘ (Grows.generateCapCall (fun e _ => exprOK e) (Grows.refl _))); done)
        | (revert e; apply (hs.step ∘ (Grows.generateAppendCall (fun e _ => exprOK e) (Grows.refl _))); done)
        | (revert e; apply (hs.step ∘ (Grows.generateMakeCall (fun e _ => exprOK e) (Grows.refl _))); done)
        | (revert e; apply (hs.step ∘ (Grows.generateExitCall (fun e _ => exprOK e) (Grows.refl _))); done)
        | (revert e; apply (h.asResult_nil); done)
        | (revert e; apply (h.failWith_nil); done)
        | (revert e; apply (h.generatePostfixExpression_nil); done)
        | fail)
    | (apply stepWith e; (focus (with_reducible apply (@ite_ok _ _ _ _ _ _); done)); intro e2
       clear e
       rcases e2 with ⟨_, e⟩ | ⟨_, e⟩)
    | (simp only [bind_assoc, pure_bind] at e)
    | (rw [bind_ok] at e
       obtain ⟨⟨x1, g1⟩, e1, e⟩ := e
       try dsimp only at e
       first
         | (apply stepWith e1; (focus (with_reducible apply (hs.step ∘ ((Grows.refl _).NewInst)); done)); clear hs; intro hs)
         | (apply stepWith e1; (focus (with_reducible apply (hs.step ∘ ((Grows.refl _).NewStore)); done)); clear hs; intro hs)
         | (apply stepWith e1; (focus (with_reducible apply (hs.step ∘ ((Grows.refl _).NewTerm)); done)); clear hs; intro hs)
         | (apply stepWith e1; (focus (with_reducible apply (hs.step ∘ ((Grows.refl _).NewBlock)); done)); clear hs; intro hs)
         | (apply stepWith e1; (focus (with_reducible apply (hs.step ∘ ((Grows.refl _).generateExpression)); done)); clear hs; intro hs)
         | (apply stepWith e1; (focus (with_reducible apply (hs.step ∘ ((Grows.refl _).appendPrologue)); done)); clear hs; intro hs)
         | (apply stepWith e1; (focus (with_reducible apply (hs.step ∘ ((Grows.refl _).appendEpilogue)); done)); clear hs; intro hs)
         | (apply stepWith e1; (focus (with_reducible apply (hs.step ∘ ((Grows.refl _).generateBoundsCheck)); done)); clear hs; intro hs)
         | (apply stepWith e1; (focus (with_reducible apply (hs.step ∘ (Grows.appendElements (fun e _ => exprOK e) (Grows.refl _))); done)); clear hs; intro hs)
         | (apply stepWith e1; (focus (with_reducible apply (hs.step ∘ (Grows.callArguments (fun e _ => exprOK e) (Grows.refl _))); done)); clear hs; intro hs)
         | (apply stepWith e1; (focus (with_reducible apply (hs.step ∘ (Grows.printfArguments (fun e _ => exprOK e) (Grows.refl _))); done)); clear hs; intro hs)
         | (apply stepWith e1; (focus (with_reducible apply (hs.step ∘ (Grows.arrayElements (fun e _ => exprOK e) (Grows.refl _))); done)); clear hs; intro hs)
         | (apply stepWith e1; (focus (with_reducible apply (hs.step ∘ ((Grows.refl _).bindLiteralParameters)); done)); clear hs; intro hs)
         | (apply stepWith e1; (focus (with_reducible apply (hs.step ∘ (Grows.generateBlockStatement (fun s _ => stmtOK s) (Grows.refl _))); done)); clear hs; intro hs)
         | (apply stepWith e1; (focus (with_reducible apply (hs.step ∘ ((Grows.refl _).implicitReturn)); done)); clear hs; intro hs)
         | (apply stepWith e1; (focus (with_reducible apply (hs.step ∘ ((Grows.refl _).brIfOpen)); done)); clear hs; intro hs)
         | (apply stepWith e1; (focus (with_reducible apply (h.NewInst); done)); clear h; intro h)
         | (apply stepWith e1; (focus (with_reducible apply (h.NewStore); done)); clear h; intro h)
         | (apply stepWith e1; (focus (with_reducible apply (h.NewTerm); done)); clear h; intro h)
         | (apply stepWith e1; (focus (with_reducible apply (h.NewBlock); done)); clear h; intro h)
         | (apply stepWith e1; (focus (with_reducible apply (h.generateExpression); done)); clear h; intro h)
         | (apply stepWith e1; (focus (with_reducible apply (h.appendPrologue); done)); clear h; intro h)
         | (apply stepWith e1; (focus (with_reducible apply (h.appendEpilogue); done)); clear h; intro h)
         | (apply stepWith e1; (focus (with_reducible apply (h.generateBoundsCheck); done)); clear h; intro h)
         | (apply stepWith e1; (focus (with_reducible apply (Grows.appendElements (fun e _ => exprOK e) h); done)); clear h; intro h)
         | (apply stepWith e1; (focus (with_reducible apply (Grows.callArguments (fun e _ => exprOK e) h); done)); clear h; intro h)
         | (apply stepWith e1; (focus (with_reducible apply (Grows.printfArguments (fun e _ => exprOK e) h); done)); clear h; intro h)
         | (apply stepWith e1; (focus (with_reducible apply (Grows.arrayElements (fun e _ => exprOK e) h); done)); clear h; intro h)
         | (apply stepWith e1; (focus (with_reducible apply (h.bindLiteralParameters); done)); clear h; intro h)
         | (apply stepWith e1; (focus (with_reducible apply (Grows.generateBlockStatement (fun s _ => stmtOK s) h); done)); clear h; intro h)
         | (apply stepWith e1; (focus (with_reducible apply (h.implicitReturn); done)); clear h; intro h)
         | (apply stepWith e1; (focus (with_reducible apply (h.brIfOpen); done)); clear h; intro h)
         | (cases e1)
         | fail)
    | (split at e <;>
       try (rename_i heq
            first
              | (apply stepWith heq; (focus (with_reducible apply (hs.step ∘ ((Grows.refl _).getOrDeclare)); done)); clear hs; intro hs)
              | (apply stepWith heq; (focus (with_reducible apply (hs.step ∘ ((Grows.refl _).resolveCallee)); done)); clear hs; intro hs)
              | (apply stepWith heq; (focus (with_reducible apply (hs.step ∘ ((Grows.refl _).generateStringLiteral)); done)); clear hs; intro hs)
              | (apply stepWith heq; (focus (with_reducible apply (hs.step ∘ ((Grows.refl _).NewInst)); done)); clear hs; intro hs)
              | (apply stepWith heq; (focus (with_reducible apply (hs.step ∘ ((Grows.refl _).NewStore)); done)); clear hs; intro hs)
              | (apply stepWith heq; (focus (with_reducible apply (hs.step ∘ ((Grows.refl _).NewTerm)); done)); clear hs; intro hs)
              | (apply stepWith heq; (focus (with_reducible apply (hs.step ∘ ((Grows.refl _).NewBlock)); done)); clear hs; intro hs)
              | (apply stepWith heq; (focus (with_reducible apply (hs.step ∘ ((Grows.refl _).generateExpression)); done)); clear hs; intro hs)
              | (apply stepWith heq; (focus (with_reducible apply (hs.step ∘ ((Grows.refl _).appendPrologue)); done)); clear hs; intro hs)
              | (apply stepWith heq; (focus (with_reducible apply (hs.step ∘ ((Grows.refl _).appendEpilogue)); done)); clear hs; intro hs)
              | (apply stepWith heq; (focus (with_reducible apply (hs.step ∘ ((Grows.refl _).generateBoundsCheck)); done)); clear hs; intro hs)
              | (apply stepWith heq; (focus (with_reducible apply (hs.step ∘ (Grows.appendElements (fun e _ => exprOK e) (Grows.refl _))); done)); clear hs; intro hs)
              | (apply stepWith heq; (focus (with_reducible apply (hs.step ∘ (Grows.callArguments (fun e _ => exprOK e) (Grows.refl _))); done)); clear hs; intro hs)
              | (apply stepWith heq; (focus (with_reducible apply (hs.step ∘ (Grows.printfArguments (fun e _ => exprOK e) (Grows.refl _))); done)); clear hs; intro hs)
              | (apply stepWith heq; (focus (with_reducible apply (hs.step ∘ (Grows.arrayElements (fun e _ => exprOK e) (Grows.refl _))); done)); clear hs; intro hs)
              | (apply stepWith heq; (focus (with_reducible apply (hs.step ∘ ((Grows.refl _).bindLiteralParameters)); done)); clear hs; intro hs)
              | (apply stepWith heq; (focus (with_reducible apply (hs.step ∘ (Grows.generateBlockStatement (fun s _ => stmtOK s) (Grows.refl _))); done)); clear hs; intro hs)
              | (apply stepWith heq; (focus (with_reducible apply (hs.step ∘ ((Grows.refl _).implicitReturn)); done)); clear hs; intro hs)
              | (apply stepWith heq; (focus (with_reducible apply (hs.step ∘ ((Grows.refl _).brIfOpen)); done)); clear hs; intro hs)
              | (apply stepWith heq; (focus (with_reducible apply (h.getOrDeclare); done)); clear h; intro h)
              | (apply stepWith heq; (focus (with_reducible apply (h.resolveCallee); done)); clear h; intro h)
              | (apply stepWith heq; (focus (with_reducible apply (h.generateStringLiteral); done)); clear h; intro h)
              | (apply stepWith heq; (focus (with_reducible apply (h.NewInst); done)); clear h; intro h)
              | (apply stepWith heq; (focus (with_reducible apply (h.NewStore); done)); clear h; intro h)
              | (apply stepWith heq; (focus (with_reducible apply (h.NewTerm); done)); clear h; intro h)
              | (apply stepWith heq; (focus (with_reducible apply (h.NewBlock); done)); clear h; intro h)
              | (apply stepWith heq; (focus (with_reducible apply (h.generateExpression); done)); clear h; intro h)
              | (apply stepWith heq; (focus (with_reducible apply (h.appendPrologue); done)); clear h; intro h)
              | (apply stepWith heq; (focus (with_reducible apply (h.appendEpilogue); done)); clear h; intro h)
              | (apply stepWith heq; (focus (with_reducible apply (h.generateBoundsCheck); done)); clear h; intro h)
              | (apply stepWith heq; (focus (with_reducible apply (Grows.appendElements (fun e _ => exprOK e) h); done)); clear h; intro h)
              | (apply stepWith heq; (focus (with_reducible apply (Grows.callArguments (fun e _ => exprOK e) h); done)); clear h; intro h)
              | (apply stepWith heq; (focus (with_reducible apply (Grows.printfArguments (fun e _ => exprOK e) h); done)); clear h; intro h)
              | (apply stepWith heq; (focus (with_reducible apply (Grows.arrayElements (fun e _ => exprOK e) h); done)); clear h; intro h)
              | (apply stepWith heq; (focus (with_reducible apply (h.bindLiteralParameters); done)); clear h; intro h)
              | (apply stepWith heq; (focus (with_reducible apply (Grows.generateBlockStatement (fun s _ => stmtOK s) h); done)); clear h; intro h)
              | (apply stepWith heq; (focus (with_reducible apply (h.implicitReturn); done)); clear h; intro h)
              | (apply stepWith heq; (focus (with_reducible apply (h.brIfOpen); done)); clear h; intro h)
              | fail))
    | (cases e; first | done | exact hs.extend | exact h.report _ | fail)
    | (dsimp only at e)
    | fail)

theorem NilOK.of_call (function : Expression) {arguments : List Expression} (ih : ∀ a rest, arguments = a :: rest → NilOK a) :
    NilOK (.CallExpression function arguments) := by
  constructor
  intro x g' e
  have h : Grows x x := Grows.refl x
  rw [generateExpression_call_eq] at e
  try simp only [IRGenerator.NewAlloca, IRGenerator.NewLoad, IRGenerator.NewBin, IRGenerator.NewICmp, IRGenerator.NewFCmp, IRGenerator.NewGetElementPtr, IRGenerator.funcValue, NewCall_func, IRGenerator.NewCall, IRGenerator.NewZExt, IRGenerator.NewSelect, IRGenerator.NewBr, IRGenerator.NewCondBr, IRGenerator.NewRet, IRGenerator.NewUnreachable, IRGenerator.NewFunc, IRGenerator.NewGlobalDef] at e
  repeat' (first
    | (with_reducible first
        | (revert e; apply (hs.step ∘ ((Grows.refl _).NewInst)); done)
        | (revert e; apply (hs.step ∘ ((Grows.refl _).NewStore)); done)
        | (revert e; apply (hs.step ∘ ((Grows.refl _).NewTerm)); done)
        | (revert e; apply (hs.step ∘ ((Grows.refl _).NewBlock)); done)
        | (revert e; apply (hs.step ∘ ((Grows.refl _).generateExpression)); done)
        | (revert e; apply (hs.step ∘ ((Grows.refl _).appendPrologue)); done)
        | (revert e; apply (hs.step ∘ ((Grows.refl _).appendEpilogue)); done)
        | (revert e; apply (hs.step ∘ ((Grows.refl _).generateBoundsCheck)); done)
        | (revert e; apply (hs.step ∘ (Grows.appendElements (fun e _ => exprOK e) (Grows.refl _))); done)
        | (revert e; apply (hs.step ∘ (Grows.callArguments (fun e _ => exprOK e) (Grows.refl _))); done)
        | (revert e; apply (hs.step ∘ (Grows.printfArguments (fun e _ => exprOK e) (Grows.refl _))); done)
        | (revert e; apply (hs.step ∘ (Grows.arrayElements (fun e _ => exprOK e) (Grows.refl _))); done)
        | (revert e; apply (hs.step ∘ ((Grows.refl _).bindLiteralParameters)); done)
        | (revert e; apply (hs.step ∘ (Grows.generateBlockStatement (fun s _ => stmtOK s) (Grows.refl _))); done)
        | (revert e; apply (hs.step ∘ ((Grows.refl _).implicitReturn)); done)
        | (revert e; apply (hs.step ∘ ((Grows.refl _).brIfOpen)); done)
        | (revert e; apply (hs.step ∘ ((Grows.refl _).asResult)); done)
        | (revert e; apply (hs.step ∘ ((Grows.refl _).failWith)); done)
        | (revert e; apply (hs.step ∘ ((Grows.refl _).generateIdentifier)); done)
        | (revert e; apply (hs.step ∘ ((Grows.refl _).prefixOperator)); done)
        | (revert e; apply (hs.step ∘ ((Grows.refl _).generatePostfixExpression)); done)
        | (revert e; apply (hs.step ∘ ((Grows.refl _).generateStringConcatenation)); done)
        | (revert e; apply (hs.step ∘ ((Grows.refl _).infixOperator)); done)
        | (revert e; apply (hs.step ∘ ((Grows.refl _).indexAccess)); done)
        | (revert e; apply (hs.step ∘ ((Grows.refl _).lenOrCap)); done)
        | (revert e; apply (hs.step ∘ ((Grows.refl _).makeSlice)); done)
        | (revert e; apply (hs.step ∘ ((Grows.refl _).printfNoArguments)); done)
        | (revert e; apply (hs.step ∘ ((Grows.refl _).printfCall)); done)
        | (revert e; apply (hs.step ∘ (Grows.generateLenCall (fun e _ => exprOK e) (Grows.refl _))); done)
        | (revert e; apply (hs.step ∘ (Grows.generateCapCall (fun e _ => exprOK e) (Grows.refl _))); done)
        | (revert e; apply (hs.step ∘ (Grows.generateAppendCall (fun e _ => exprOK e) (Grows.refl _))); done)
        | (revert e; apply (hs.step ∘ (Grows.generateMakeCall (fun e _ => exprOK e) (Grows.refl _))); done)
        | (revert e; apply (hs.step ∘ (Grows.generateExitCall (fun e _ => exprOK e) (Grows.refl _))); done)
        | (revert e; apply (h.asResult_nil); done)
        | (revert e; apply (h.failWith_nil); done)
        | (revert e; apply (h.generateLenCall_nil ih); done)
        | (revert e; apply (h.generateCapCall_nil ih); done)
        | (revert e; apply (h.generateAppendCall_nil ih); done)
        | (revert e; apply (h.generateMakeCall_nil ih); done)
        | fail)
    | (apply stepWith e; (focus (with_reducible apply (@ite_ok _ _ _ _ _ _); done)); intro e2
       clear e
       rcases e2 with ⟨_, e⟩ | ⟨_, e⟩)
    | (simp only [bind_assoc, pure_bind] at e)
    | (rw [bind_ok] at e
       obtain ⟨⟨x1, g1⟩, e1, e⟩ := e
       try dsimp only at e
       first
         | (apply stepWith e1; (focus (with_reducible apply (hs.step ∘ ((Grows.refl _).NewInst)); done)); clear hs; intro hs)
         | (apply stepWith e1; (focus (with_reducible apply (hs.step ∘ ((Grows.refl _).NewStore)); done)); clear hs; intro hs)
         | (apply stepWith e1; (focus (with_reducible apply (hs.step ∘ ((Grows.refl _).NewTerm)); done)); clear hs; intro hs)
         | (apply stepWith e1; (focus (with_reducible apply (hs.step ∘ ((Grows.refl _).NewBlock)); done)); clear hs; intro hs)
         | (apply stepWith e1; (focus (with_reducible apply (hs.step ∘ ((Grows.refl _).generateExpression)); done)); clear hs; intro hs)
         | (apply stepWith e1; (focus (with_reducible apply (hs.step ∘ ((Grows.refl _).appendPrologue)); done)); clear hs; intro hs)
         | (apply stepWith e1; (focus (with_reducible apply (hs.step ∘ ((Grows.refl _).appendEpilogue)); done)); clear hs; intro hs)
         | (apply stepWith e1; (focus (with_reducible apply (hs.step ∘ ((Grows.refl _).generateBoundsCheck)); done)); clear hs; intro hs)
         | (apply stepWith e1; (focus (with_reducible apply (hs.step ∘ (Grows.appendElements (fun e _ => exprOK e) (Grows.refl _))); done)); clear hs; intro hs)
         | (apply stepWith e1; (focus (with_reducible apply (hs.step ∘ (Grows.callArguments (fun e _ => exprOK e) (Grows.refl _))); done)); clear hs; intro hs)
         | (apply stepWith e1; (focus (with_reducible apply (hs.step ∘ (Grows.printfArguments (fun e _ => exprOK e) (Grows.refl _))); done)); clear hs; intro hs)
         | (apply stepWith e1; (focus (with_reducible apply (hs.step ∘ (Grows.arrayElements (fun e _ => exprOK e) (Grows.refl _))); done)); clear hs; intro hs)
         | (apply stepWith e1; (focus (with_reducible apply (hs.step ∘ ((Grows.refl _).bindLiteralParameters)); done)); clear hs; intro hs)
         | (apply stepWith e1; (focus (with_reducible apply (hs.step ∘ (Grows.generateBlockStatement (fun s _ => stmtOK s) (Grows.refl _))); done)); clear hs; intro hs)
         | (apply stepWith e1; (focus (with_reducible apply (hs.step ∘ ((Grows.refl _).implicitReturn)); done)); clear hs; intro hs)
         | (apply stepWith e1; (focus (with_reducible apply (hs.step ∘ ((Grows.refl _).brIfOpen)); done)); clear hs; intro hs)
         | (apply stepWith e1; (focus (with_reducible apply (h.NewInst); done)); clear h; intro h)
         | (apply stepWith e1; (focus (with_reducible apply (h.NewStore); done)); clear h; intro h)
         | (apply stepWith e1; (focus (with_reducible apply (h.NewTerm); done)); clear h; intro h)
         | (apply stepWith e1; (focus (with_reducible apply (h.NewBlock); done)); clear h; intro h)
         | (apply stepWith e1; (focus (with_reducible apply (h.generateExpression); done)); clear h; intro h)
         | (apply stepWith e1; (focus (with_reducible apply (h.appendPrologue); done)); clear h; intro h)
         | (apply stepWith e1; (focus (with_reducible apply (h.appendEpilogue); done)); clear h; intro h)
         | (apply stepWith e1; (focus (with_reducible apply (h.generateBoundsCheck); done)); clear h; intro h)
         | (apply stepWith e1; (focus (with_reducible apply (Grows.appendElements (fun e _ => exprOK e) h); done)); clear h; intro h)
         | (apply stepWith e1; (focus (with_reducible apply (Grows.callArguments (fun e _ => exprOK e) h); done)); clear h; intro h)
         | (apply stepWith e1; (focus (with_reducible apply (Grows.printfArguments (fun e _ => exprOK e) h); done)); clear h; intro h)
         | (apply stepWith e1; (focus (with_reducible apply (Grows.arrayElements (fun e _ => exprOK e) h); done)); clear h; intro h)
         | (apply stepWith e1; (focus (with_reducible apply (h.bindLiteralParameters); done)); clear h; intro h)
         | (apply stepWith e1; (focus (with_reducible apply (Grows.generateBlockStatement (fun s _ => stmtOK s) h); done)); clear h; intro h)
         | (apply stepWith e1; (focus (with_reducible apply (h.implicitReturn); done)); clear h; intro h)
         | (apply stepWith e1; (focus (with_reducible apply (h.brIfOpen); done)); clear h; intro h)
         | (cases e1)
         | fail)
    | (split at e <;>
       try (rename_i heq
            first
              | (apply stepWith heq; (focus (with_reducible apply (hs.step ∘ ((Grows.refl _).getOrDeclare)); done)); clear hs; intro hs)
              | (apply stepWith heq; (focus (with_reducible apply (hs.step ∘ ((Grows.refl _).resolveCallee)); done)); clear hs; intro hs)
              | (apply stepWith heq; (focus (with_reducible apply (hs.step ∘ ((Grows.refl _).generateStringLiteral)); done)); clear hs; intro hs)
              | (apply stepWith heq; (focus (with_reducible apply (hs.step ∘ ((Grows.refl _).NewInst)); done)); clear hs; intro hs)
              | (apply stepWith heq; (focus (with_reducible apply (hs.step ∘ ((Grows.refl _).NewStore)); done)); clear hs; intro hs)
              | (apply stepWith heq; (focus (with_reducible apply (hs.step ∘ ((Grows.refl _).NewTerm)); done)); clear hs; intro hs)
              | (apply stepWith heq; (focus (with_reducible apply (hs.step ∘ ((Grows.refl _).NewBlock)); done)); clear hs; intro hs)
              | (apply stepWith heq; (focus (with_reducible apply (hs.step ∘ ((Grows.refl _).generateExpression)); done)); clear hs; intro hs)
              | (apply stepWith heq; (focus (with_reducible apply (hs.step ∘ ((Grows.refl _).appendPrologue)); done)); clear hs; intro hs)
              | (apply stepWith heq; (focus (with_reducible apply (hs.step ∘ ((Grows.refl _).appendEpilogue)); done)); clear hs; intro hs)
              | (apply stepWith heq; (focus (with_reducible apply (hs.step ∘ ((Grows.refl _).generateBoundsCheck)); done)); clear hs; intro hs)
              | (apply stepWith heq; (focus (with_reducible apply (hs.step ∘ (Grows.appendElements (fun e _ => exprOK e) (Grows.refl _))); done)); clear hs; intro hs)
              | (apply stepWith heq; (focus (with_reducible apply (hs.step ∘ (Grows.callArguments (fun e _ => exprOK e) (Grows.refl _))); done)); clear hs; intro hs)
              | (apply stepWith heq; (focus (with_reducible apply (hs.step ∘ (Grows.printfArguments (fun e _ => exprOK e) (Grows.refl _))); done)); clear hs; intro hs)
              | (apply stepWith heq; (focus (with_reducible apply (hs.step ∘ (Grows.arrayElements (fun e _ => exprOK e) (Grows.refl _))); done)); clear hs; intro hs)
              | (apply stepWith heq; (focus (with_reducible apply (hs.step ∘ ((Grows.refl _).bindLiteralParameters)); done)); clear hs; intro hs)
              | (apply stepWith heq; (focus (with_reducible apply (hs.step ∘ (Grows.generateBlockStatement (fun s _ => stmtOK s) (Grows.refl _))); done)); clear hs; intro hs)
              | (apply stepWith heq; (focus (with_reducible apply (hs.step ∘ ((Grows.refl _).implicitReturn)); done)); clear hs; intro hs)
              | (apply stepWith heq; (focus (with_reducible apply (hs.step ∘ ((Grows.refl _).brIfOpen)); done)); clear hs; intro hs)
              | (apply stepWith heq; (focus (with_reducible apply (h.getOrDeclare); done)); clear h; intro h)
              | (apply stepWith heq; (focus (with_reducible apply (h.resolveCallee); done)); clear h; intro h)
              | (apply stepWith heq; (focus (with_reducible apply (h.generateStringLiteral); done)); clear h; intro h)
              | (apply stepWith heq; (focus (with_reducible apply (h.NewInst); done)); clear h; intro h)
              | (apply stepWith heq; (focus (with_reducible apply (h.NewStore); done)); clear h; intro h)
              | (apply stepWith heq; (focus (with_reducible apply (h.NewTerm); done)); clear h; intro h)
              | (apply stepWith heq; (focus (with_reducible apply (h.NewBlock); done)); clear h; intro h)
              | (apply stepWith heq; (focus (with_reducible apply (h.generateExpression); done)); clear h; intro h)
              | (apply stepWith heq; (focus (with_reducible apply (h.appendPrologue); done)); clear h; intro h)
              | (apply stepWith heq; (focus (with_reducible apply (h.appendEpilogue); done)); clear h; intro h)
              | (apply stepWith heq; (focus (with_reducible apply (h.generateBoundsCheck); done)); clear h; intro h)
              | (apply stepWith heq; (focus (with_reducible apply (Grows.appendElements (fun e _ => exprOK e) h); done)); clear h; intro h)
              | (apply stepWith heq; (focus (with_reducible apply (Grows.callArguments (fun e _ => exprOK e) h); done)); clear h; intro h)
              | (apply stepWith heq; (focus (with_reducible apply (Grows.printfArguments (fun e _ => exprOK e) h); done)); clear h; intro h)
              | (apply stepWith heq; (focus (with_reducible apply (Grows.arrayElements (fun e _ => exprOK e) h); done)); clear h; intro h)
              | (apply stepWith heq; (focus (with_reducible apply (h.bindLiteralParameters); done)); clear h; intro h)
              | (apply stepWith heq; (focus (with_reducible apply (Grows.generateBlockStatement (fun s _ => stmtOK s) h); done)); clear h; intro h)
              | (apply stepWith heq; (focus (with_reducible apply (h.implicitReturn); done)); clear h; intro h)
              | (apply stepWith heq; (focus (with_reducible apply (h.brIfOpen); done)); clear h; intro h)
              | fail))
    | (cases e; first | done | exact hs.extend | exact h.report _ | fail)
    | (dsimp only at e)
    | fail)

theorem NilOK.of_memberCall (object member : Expression) (arguments : List Expression) :
    NilOK (.MemberCall object member arguments) := by
  constructor
  intro x g' e
  have h : Grows x x := Grows.refl x
  rw [generateExpression_memberCall_eq] at e
  try simp only [IRGenerator.NewAlloca, IRGenerator.NewLoad, IRGenerator.NewBin, IRGenerator.NewICmp, IRGenerator.NewFCmp, IRGenerator.NewGetElementPtr, IRGenerator.funcValue, NewCall_func, IRGenerator.NewCall, IRGenerator.NewZExt, IRGenerator.NewSelect, IRGenerator.NewBr, IRGenerator.NewCondBr, IRGenerator.NewRet, IRGenerator.NewUnreachable, IRGenerator.NewFunc, IRGenerator.NewGlobalDef] at e
  repeat' (first
    | (with_reducible first
        | (revert e; apply (hs.step ∘ ((Grows.refl _).NewInst)); done)
        | (revert e; apply (hs.step ∘ ((Grows.refl _).NewStore)); done)
        | (revert e; apply (hs.step ∘ ((Grows.refl _).NewTerm)); done)
        | (revert e; apply (hs.step ∘ ((Grows.refl _).NewBlock)); done)
        | (revert e; apply (hs.step ∘ ((Grows.refl _).generateExpression)); done)
        | (revert e; apply (hs.step ∘ ((Grows.refl _).appendPrologue)); done)
        | (revert e; apply (hs.step ∘ ((Grows.refl _).appendEpilogue)); done)
        | (revert e; apply (hs.step ∘ ((Grows.refl _).generateBoundsCheck)); done)
        | (revert e; apply (hs.step ∘ (Grows.appendElements (fun e _ => exprOK e) (Grows.refl _))); done)
        | (revert e; apply (hs.step ∘ (Grows.callArguments (fun e _ => exprOK e) (Grows.refl _))); done)
        | (revert e; apply (hs.step ∘ (Grows.printfArguments (fun e _ => exprOK e) (Grows.refl _))); done)
        | (revert e; apply (hs.step ∘ (Grows.arrayElements (fun e _ => exprOK e) (Grows.refl _))); done)
        | (revert e; apply (hs.step ∘ ((Grows.refl _).bindLiteralParameters)); done)
        | (revert e; apply (hs.step ∘ (Grows.generateBlockStatement (fun s _ => stmtOK s) (Grows.refl _))); done)
        | (revert e; apply (hs.step ∘ ((Grows.refl _).implicitReturn)); done)
        | (revert e; apply (hs.step ∘ ((Grows.refl _).brIfOpen)); done)
        | (revert e; apply (hs.step ∘ ((Grows.refl _).asResult)); done)
        | (revert e; apply (hs.step ∘ ((Grows.refl _).failWith)); done)
        | (revert e; apply (hs.step ∘ ((Grows.refl _).generateIdentifier)); done)
        | (revert e; apply (hs.step ∘ ((Grows.refl _).prefixOperator)); done)
        | (revert e; apply (hs.step ∘ ((Grows.refl _).generatePostfixExpression)); done)
        | (revert e; apply (hs.step ∘ ((Grows.refl _).generateStringConcatenation)); done)
        | (revert e; apply (hs.step ∘ ((Grows.refl _).infixOperator)); done)
        | (revert e; apply (hs.step ∘ ((Grows.refl _).indexAccess)); done)
        | (revert e; apply (hs.step ∘ ((Grows.refl _).lenOrCap)); done)
        | (revert e; apply (hs.step ∘ ((Grows.refl _).makeSlice)); done)
        | (revert e; apply (hs.step ∘ ((Grows.refl _).printfNoArguments)); done)
        | (revert e; apply (hs.step ∘ ((Grows.refl _).printfCall)); done)
        | (revert e; apply (hs.step ∘ (Grows.generateLenCall (fun e _ => exprOK e) (Grows.refl _))); done)
        | (revert e; apply (hs.step ∘ (Grows.generateCapCall (fun e _ => exprOK e) (Grows.refl _))); done)
        | (revert e; apply (hs.step ∘ (Grows.generateAppendCall (fun e _ => exprOK e) (Grows.refl _))); done)
        | (revert e; apply (hs.step ∘ (Grows.generateMakeCall (fun e _ => exprOK e) (Grows.refl _))); done)
        | (revert e; apply (hs.step ∘ (Grows.generateExitCall (fun e _ => exprOK e) (Grows.refl _))); done)
        | (revert e; apply (h.asResult_nil); done)
        | (revert e; apply (h.failWith_nil); done)
        | (revert e; apply (h.printfNoArguments_nil); done)
        | (revert e; apply (h.printfCall_nil); done)
        | (revert e; apply (h.generateExitCall_nil); done)
        | fail)
    | (apply stepWith e; (focus (with_reducible apply (@ite_ok _ _ _ _ _ _); done)); intro e2
       clear e
       rcases e2 with ⟨_, e⟩ | ⟨_, e⟩)
    | (simp only [bind_assoc, pure_bind] at e)
    | (rw [bind_ok] at e
       obtain ⟨⟨x1, g1⟩, e1, e⟩ := e
       try dsimp only at e
       first
         | (apply stepWith e1; (focus (with_reducible apply (hs.step ∘ ((Grows.refl _).NewInst)); done)); clear hs; intro hs)
         | (apply stepWith e1; (focus (with_reducible apply (hs.step ∘ ((Grows.refl _).NewStore)); done)); clear hs; intro hs)
         | (apply stepWith e1; (focus (with_reducible apply (hs.step ∘ ((Grows.refl _).NewTerm)); done)); clear hs; intro hs)
         | (apply stepWith e1; (focus (with_reducible apply (hs.step ∘ ((Grows.refl _).NewBlock)); done)); clear hs; intro hs)
         | (apply stepWith e1; (focus (with_reducible apply (hs.step ∘ ((Grows.refl _).generateExpression)); done)); clear hs; intro hs)
         | (apply stepWith e1; (focus (with_reducible apply (hs.step ∘ ((Grows.refl _).appendPrologue)); done)); clear hs; intro hs)
         | (apply stepWith e1; (focus (with_reducible apply (hs.step ∘ ((Grows.refl _).appendEpilogue)); done)); clear hs; intro hs)
         | (apply stepWith e1; (focus (with_reducible apply (hs.step ∘ ((Grows.refl _).generateBoundsCheck)); done)); clear hs; intro hs)
         | (apply stepWith e1; (focus (with_reducible apply (hs.step ∘ (Grows.appendElements (fun e _ => exprOK e) (Grows.refl _))); done)); clear hs; intro hs)
         | (apply stepWith e1; (focus (with_reducible apply (hs.step ∘ (Grows.callArguments (fun e _ => exprOK e) (Grows.refl _))); done)); clear hs; intro hs)
         | (apply stepWith e1; (focus (with_reducible apply (hs.step ∘ (Grows.printfArguments (fun e _ => exprOK e) (Grows.refl _))); done)); clear hs; intro hs)
         | (apply stepWith e1; (focus (with_reducible apply (hs.step ∘ (Grows.arrayElements (fun e _ => exprOK e) (Grows.refl _))); done)); clear hs; intro hs)
         | (apply stepWith e1; (focus (with_reducible apply (hs.step ∘ ((Grows.refl _).bindLiteralParameters)); done)); clear hs; intro hs)
         | (apply stepWith e1; (focus (with_reducible apply (hs.step ∘ (Grows.generateBlockStatement (fun s _ => stmtOK s) (Grows.refl _))); done)); clear hs; intro hs)
         | (apply stepWith e1; (focus (with_reducible apply (hs.step ∘ ((Grows.refl _).implicitReturn)); done)); clear hs; intro hs)
         | (apply stepWith e1; (focus (with_reducible apply (hs.step ∘ ((Grows.refl _).brIfOpen)); done)); clear hs; intro hs)
         | (apply stepWith e1; (focus (with_reducible apply (h.NewInst); done)); clear h; intro h)
         | (apply stepWith e1; (focus (with_reducible apply (h.NewStore); done)); clear h; intro h)
         | (apply stepWith e1; (focus (with_reducible apply (h.NewTerm); done)); clear h; intro h)
         | (apply stepWith e1; (focus (with_reducible apply (h.NewBlock); done)); clear h; intro h)
         | (apply stepWith e1; (focus (with_reducible apply (h.generateExpression); done)); clear h; intro h)
         | (apply stepWith e1; (focus (with_reducible apply (h.appendPrologue); done)); clear h; intro h)
         | (apply stepWith e1; (focus (with_reducible apply (h.appendEpilogue); done)); clear h; intro h)
         | (apply stepWith e1; (focus (with_reducible apply (h.generateBoundsCheck); done)); clear h; intro h)
         | (apply stepWith e1; (focus (with_reducible apply (Grows.appendElements (fun e _ => exprOK e) h); done)); clear h; intro h)
         | (apply stepWith e1; (focus (with_reducible apply (Grows.callArguments (fun e _ => exprOK e) h); done)); clear h; intro h)
         | (apply stepWith e1; (focus (with_reducible apply (Grows.printfArguments (fun e _ => exprOK e) h); done)); clear h; intro h)
         | (apply stepWith e1; (focus (with_reducible apply (Grows.arrayElements (fun e _ => exprOK e) h); done)); clear h; intro h)
         | (apply stepWith e1; (focus (with_reducible apply (h.bindLiteralParameters); done)); clear h; intro h)
         | (apply stepWith e1; (focus (with_reducible apply (Grows.generateBlockStatement (fun s _ => stmtOK s) h); done)); clear h; intro h)
         | (apply stepWith e1; (focus (with_reducible apply (h.implicitReturn); done)); clear h; intro h)
         | (apply stepWith e1; (focus (with_reducible apply (h.brIfOpen); done)); clear h; intro h)
         | (cases e1)
         | fail)
    | (split at e <;>
       try (rename_i heq
            first
              | (apply stepWith heq; (focus (with_reducible apply (hs.step ∘ ((Grows.refl _).getOrDeclare)); done)); clear hs; intro hs)
              | (apply stepWith heq; (focus (with_reducible apply (hs.step ∘ ((Grows.refl _).resolveCallee)); done)); clear hs; intro hs)
              | (apply stepWith heq; (focus (with_reducible apply (hs.step ∘ ((Grows.refl _).generateStringLiteral)); done)); clear hs; intro hs)
              | (apply stepWith heq; (focus (with_reducible apply (hs.step ∘ ((Grows.refl _).NewInst)); done)); clear hs; intro hs)
              | (apply stepWith heq; (focus (with_reducible apply (hs.step ∘ ((Grows.refl _).NewStore)); done)); clear hs; intro hs)
              | (apply stepWith heq; (focus (with_reducible apply (hs.step ∘ ((Grows.refl _).NewTerm)); done)); clear hs; intro hs)
              | (apply stepWith heq; (focus (with_reducible apply (hs.step ∘ ((Grows.refl _).NewBlock)); done)); clear hs; intro hs)
              | (apply stepWith heq; (focus (with_reducible apply (hs.step ∘ ((Grows.refl _).generateExpression)); done)); clear hs; intro hs)
              | (apply stepWith heq; (focus (with_reducible apply (hs.step ∘ ((Grows.refl _).appendPrologue)); done)); clear hs; intro hs)
              | (apply stepWith heq; (focus (with_reducible apply (hs.step ∘ ((Grows.refl _).appendEpilogue)); done)); clear hs; intro hs)
              | (apply stepWith heq; (focus (with_reducible apply (hs.step ∘ ((Grows.refl _).generateBoundsCheck)); done)); clear hs; intro hs)
              | (apply stepWith heq; (focus (with_reducible apply (hs.step ∘ (Grows.appendElements (fun e _ => exprOK e) (Grows.refl _))); done)); clear hs; intro hs)
              | (apply stepWith heq; (focus (with_reducible apply (hs.step ∘ (Grows.callArguments (fun e _ => exprOK e) (Grows.refl _))); done)); clear hs; intro hs)
              | (apply stepWith heq; (focus (with_reducible apply (hs.step ∘ (Grows.printfArguments (fun e _ => exprOK e) (Grows.refl _))); done)); clear hs; intro hs)
              | (apply stepWith heq; (focus (with_reducible apply (hs.step ∘ (Grows.arrayElements (fun e _ => exprOK e) (Grows.refl _))); done)); clear hs; intro hs)
              | (apply stepWith heq; (focus (with_reducible apply (hs.step ∘ ((Grows.refl _).bindLiteralParameters)); done)); clear hs; intro hs)
              | (apply stepWith heq; (focus (with_reducible apply (hs.step ∘ (Grows.generateBlockStatement (fun s _ => stmtOK s) (Grows.refl _))); done)); clear hs; intro hs)
              | (apply stepWith heq; (focus (with_reducible apply (hs.step ∘ ((Grows.refl _).implicitReturn)); done)); clear hs; intro hs)
              | (apply stepWith heq; (focus (with_reducible apply (hs.step ∘ ((Grows.refl _).brIfOpen)); done)); clear hs; intro hs)
              | (apply stepWith heq; (focus (with_reducible apply (h.getOrDeclare); done)); clear h; intro h)
              | (apply stepWith heq; (focus (with_reducible apply (h.resolveCallee); done)); clear h; intro h)
              | (apply stepWith heq; (focus (with_reducible apply (h.generateStringLiteral); done)); clear h; intro h)
              | (apply stepWith heq; (focus (with_reducible apply (h.NewInst); done)); clear h; intro h)
              | (apply stepWith heq; (focus (with_reducible apply (h.NewStore); done)); clear h; intro h)
              | (apply stepWith heq; (focus (with_reducible apply (h.NewTerm); done)); clear h; intro h)
              | (apply stepWith heq; (focus (with_reducible apply (h.NewBlock); done)); clear h; intro h)
              | (apply stepWith heq; (focus (with_reducible apply (h.generateExpression); done)); clear h; intro h)
              | (apply stepWith heq; (focus (with_reducible apply (h.appendPrologue); done)); clear h; intro h)
              | (apply stepWith heq; (focus (with_reducible apply (h.appendEpilogue); done)); clear h; intro h)
              | (apply stepWith heq; (focus (with_reducible apply (h.generateBoundsCheck); done)); clear h; intro h)
              | (apply stepWith heq; (focus (with_reducible apply (Grows.appendElements (fun e _ => exprOK e) h); done)); clear h; intro h)
              | (apply stepWith heq; (focus (with_reducible apply (Grows.callArguments (fun e _ => exprOK e) h); done)); clear h; intro h)
              | (apply stepWith heq; (focus (with_reducible apply (Grows.printfArguments (fun e _ => exprOK e) h); done)); clear h; intro h)
              | (apply stepWith heq; (focus (with_reducible apply (Grows.arrayElements (fun e _ => exprOK e) h); done)); clear h; intro h)
              | (apply stepWith heq; (focus (with_reducible apply (h.bindLiteralParameters); done)); clear h; intro h)
              | (apply stepWith heq; (focus (with_reducible apply (Grows.generateBlockStatement (fun s _ => stmtOK s) h); done)); clear h; intro h)
              | (apply stepWith heq; (focus (with_reducible apply (h.implicitReturn); done)); clear h; intro h)
              | (apply stepWith heq; (focus (with_reducible apply (h.brIfOpen); done)); clear h; intro h)
              | fail))
    | (cases e; first | done | exact hs.extend | exact h.report _ | fail)
    | (dsimp only at e)
    | fail)

theorem NilOK.of_functionLiteral (parameters : List String) (body : Option (List Statement)) :
    NilOK (.FunctionLiteral parameters body) := by
  constructor
  intro x g' e
  have h : Grows x x := Grows.refl x
  rw [generateExpression_functionLiteral_eq] at e
  try simp only [IRGenerator.NewAlloca, IRGenerator.NewLoad, IRGenerator.NewBin, IRGenerator.NewICmp, IRGenerator.NewFCmp, IRGenerator.NewGetElementPtr, IRGenerator.funcValue, NewCall_func, IRGenerator.NewCall, IRGenerator.NewZExt, IRGenerator.NewSelect, IRGenerator.NewBr, IRGenerator.NewCondBr, IRGenerator.NewRet, IRGenerator.NewUnreachable, IRGenerator.NewFunc, IRGenerator.NewGlobalDef] at e
  repeat' (first
    | (with_reducible first
        | (revert e; apply (hs.step ∘ ((Grows.refl _).NewInst)); done)
        | (revert e; apply (hs.step ∘ ((Grows.refl _).NewStore)); done)
        | (revert e; apply (hs.step ∘ ((Grows.refl _).NewTerm)); done)
        | (revert e; apply (hs.step ∘ ((Grows.refl _).NewBlock)); done)
        | (revert e; apply (hs.step ∘ ((Grows.refl _).generateExpression)); done)
        | (revert e; apply (hs.step ∘ ((Grows.refl _).appendPrologue)); done)
        | (revert e; apply (hs.step ∘ ((Grows.refl _).appendEpilogue)); done)
        | (revert e; apply (hs.step ∘ ((Grows.refl _).generateBoundsCheck)); done)
        | (revert e; apply (hs.step ∘ (Grows.appendElements (fun e _ => exprOK e) (Grows.refl _))); done)
        | (revert e; apply (hs.step ∘ (Grows.callArguments (fun e _ => exprOK e) (Grows.refl _))); done)
        | (revert e; apply (hs.step ∘ (Grows.printfArguments (fun e _ => exprOK e) (Grows.refl _))); done)
        | (revert e; apply (hs.step ∘ (Grows.arrayElements (fun e _ => exprOK e) (Grows.refl _))); done)
        | (revert e; apply (hs.step ∘ ((Grows.refl _).bindLiteralParameters)); done)
        | (revert e; apply (hs.step ∘ (Grows.generateBlockStatement (fun s _ => stmtOK s) (Grows.refl _))); done)
        | (revert e; apply (hs.step ∘ ((Grows.refl _).implicitReturn)); done)
        | (revert e; apply (hs.step ∘ ((Grows.refl _).brIfOpen)); done)
        | (revert e; apply (hs.step ∘ ((Grows.refl _).asResult)); done)
        | (revert e; apply (hs.step ∘ ((Grows.refl _).failWith)); done)
        | (revert e; apply (hs.step ∘ ((Grows.refl _).generateIdentifier)); done)
        | (revert e; apply (hs.step ∘ ((Grows.refl _).prefixOperator)); done)
        | (revert e; apply (hs.step ∘ ((Grows.refl _).generatePostfixExpression)); done)
        | (revert e; apply (hs.step ∘ ((Grows.refl _).generateStringConcatenation)); done)
        | (revert e; apply (hs.step ∘ ((Grows.refl _).infixOperator)); done)
        | (revert e; apply (hs.step ∘ ((Grows.refl _).indexAccess)); done)
        | (revert e; apply (hs.step ∘ ((Grows.refl _).lenOrCap)); done)
        | (revert e; apply (hs.step ∘ ((Grows.refl _).makeSlice)); done)
        | (revert e; apply (hs.step ∘ ((Grows.refl _).printfNoArguments)); done)
        | (revert e; apply (hs.step ∘ ((Grows.refl _).printfCall)); done)
        | (revert e; apply (hs.step ∘ (Grows.generateLenCall (fun e _ => exprOK e) (Grows.refl _))); done)
        | (revert e; apply (hs.step ∘ (Grows.generateCapCall (fun e _ => exprOK e) (Grows.refl _))); done)
        | (revert e; apply (hs.step ∘ (Grows.generateAppendCall (fun e _ => exprOK e) (Grows.refl _))); done)
        | (revert e; apply (hs.step ∘ (Grows.generateMakeCall (fun e _ => exprOK e) (Grows.refl _))); done)
        | (revert e; apply (hs.step ∘ (Grows.generateExitCall (fun e _ => exprOK e) (Grows.refl _))); done)
        | (revert e; apply (h.asResult_nil); done)
        | (revert e; apply (h.failWith_nil); done)
        | fail)
    | (apply stepWith e; (focus (with_reducible apply (@ite_ok _ _ _ _ _ _); done)); intro e2
       clear e
       rcases e2 with ⟨_, e⟩ | ⟨_, e⟩)
    | (simp only [bind_assoc, pure_bind] at e)
    | (rw [bind_ok] at e
       obtain ⟨⟨x1, g1⟩, e1, e⟩ := e
       try dsimp only at e
       first
         | (apply stepWith e1; (focus (with_reducible apply (hs.step ∘ ((Grows.refl _).NewInst)); done)); clear hs; intro hs)
         | (apply stepWith e1; (focus (with_reducible apply (hs.step ∘ ((Grows.refl _).NewStore)); done)); clear hs; intro hs)
         | (apply stepWith e1; (focus (with_reducible apply (hs.step ∘ ((Grows.refl _).NewTerm)); done)); clear hs; intro hs)
         | (apply stepWith e1; (focus (with_reducible apply (hs.step ∘ ((Grows.refl _).NewBlock)); done)); clear hs; intro hs)
         | (apply stepWith e1; (focus (with_reducible apply (hs.step ∘ ((Grows.refl _).generateExpression)); done)); clear hs; intro hs)
         | (apply stepWith e1; (focus (with_reducible apply (hs.step ∘ ((Grows.refl _).appendPrologue)); done)); clear hs; intro hs)
         | (apply stepWith e1; (focus (with_reducible apply (hs.step ∘ ((Grows.refl _).appendEpilogue)); done)); clear hs; intro hs)
         | (apply stepWith e1; (focus (with_reducible apply (hs.step ∘ ((Grows.refl _).generateBoundsCheck)); done)); clear hs; intro hs)
         | (apply stepWith e1; (focus (with_reducible apply (hs.step ∘ (Grows.appendElements (fun e _ => exprOK e) (Grows.refl _))); done)); clear hs; intro hs)
         | (apply stepWith e1; (focus (with_reducible apply (hs.step ∘ (Grows.callArguments (fun e _ => exprOK e) (Grows.refl _))); done)); clear hs; intro hs)
         | (apply stepWith e1; (focus (with_reducible apply (hs.step ∘ (Grows.printfArguments (fun e _ => exprOK e) (Grows.refl _))); done)); clear hs; intro hs)
         | (apply stepWith e1; (focus (with_reducible apply (hs.step ∘ (Grows.arrayElements (fun e _ => exprOK e) (Grows.refl _))); done)); clear hs; intro hs)
         | (apply stepWith e1; (focus (with_reducible apply (hs.step ∘ ((Grows.refl _).bindLiteralParameters)); done)); clear hs; intro hs)
         | (apply stepWith e1; (focus (with_reducible apply (hs.step ∘ (Grows.generateBlockStatement (fun s _ => stmtOK s) (Grows.refl _))); done)); clear hs; intro hs)
         | (apply stepWith e1; (focus (with_reducible apply (hs.step ∘ ((Grows.refl _).implicitReturn)); done)); clear hs; intro hs)
         | (apply stepWith e1; (focus (with_reducible apply (hs.step ∘ ((Grows.refl _).brIfOpen)); done)); clear hs; intro hs)
         | (apply stepWith e1; (focus (with_reducible apply (h.NewInst); done)); clear h; intro h)
         | (apply stepWith e1; (focus (with_reducible apply (h.NewStore); done)); clear h; intro h)
         | (apply stepWith e1; (focus (with_reducible apply (h.NewTerm); done)); clear h; intro h)
         | (apply stepWith e1; (focus (with_reducible apply (h.NewBlock); done)); clear h; intro h)
         | (apply stepWith e1; (focus (with_reducible apply (h.generateExpression); done)); clear h; intro h)
         | (apply stepWith e1; (focus (with_reducible apply (h.appendPrologue); done)); clear h; intro h)
         | (apply stepWith e1; (focus (with_reducible apply (h.appendEpilogue); done)); clear h; intro h)
         | (apply stepWith e1; (focus (with_reducible apply (h.generateBoundsCheck); done)); clear h; intro h)
         | (apply stepWith e1; (focus (with_reducible apply (Grows.appendElements (fun e _ => exprOK e) h); done)); clear h; intro h)
         | (apply stepWith e1; (focus (with_reducible apply (Grows.callArguments (fun e _ => exprOK e) h); done)); clear h; intro h)
         | (apply stepWith e1; (focus (with_reducible apply (Grows.printfArguments (fun e _ => exprOK e) h); done)); clear h; intro h)
         | (apply stepWith e1; (focus (with_reducible apply (Grows.arrayElements (fun e _ => exprOK e) h); done)); clear h; intro h)
         | (apply stepWith e1; (focus (with_reducible apply (h.bindLiteralParameters); done)); clear h; intro h)
         | (apply stepWith e1; (focus (with_reducible apply (Grows.generateBlockStatement (fun s _ => stmtOK s) h); done)); clear h; intro h)
         | (apply stepWith e1; (focus (with_reducible apply (h.implicitReturn); done)); clear h; intro h)
         | (apply stepWith e1; (focus (with_reducible apply (h.brIfOpen); done)); clear h; intro h)
         | (cases e1)
         | fail)
    | (split at e <;>
       try (rename_i heq
            first
              | (apply stepWith heq; (focus (with_reducible apply (hs.step ∘ ((Grows.refl _).getOrDeclare)); done)); clear hs; intro hs)
              | (apply stepWith heq; (focus (with_reducible apply (hs.step ∘ ((Grows.refl _).resolveCallee)); done)); clear hs; intro hs)
              | (apply stepWith heq; (focus (with_reducible apply (hs.step ∘ ((Grows.refl _).generateStringLiteral)); done)); clear hs; intro hs)
              | (apply stepWith heq; (focus (with_reducible apply (hs.step ∘ ((Grows.refl _).NewInst)); done)); clear hs; intro hs)
              | (apply stepWith heq; (focus (with_reducible apply (hs.step ∘ ((Grows.refl _).NewStore)); done)); clear hs; intro hs)
              | (apply stepWith heq; (focus (with_reducible apply (hs.step ∘ ((Grows.refl _).NewTerm)); done)); clear hs; intro hs)
              | (apply stepWith heq; (focus (with_reducible apply (hs.step ∘ ((Grows.refl _).NewBlock)); done)); clear hs; intro hs)
              | (apply stepWith heq; (focus (with_reducible apply (hs.step ∘ ((Grows.refl _).generateExpression)); done)); clear hs; intro hs)
              | (apply stepWith heq; (focus (with_reducible apply (hs.step ∘ ((Grows.refl _).appendPrologue)); done)); clear hs; intro hs)
              | (apply stepWith heq; (focus (with_reducible apply (hs.step ∘ ((Grows.refl _).appendEpilogue)); done)); clear hs; intro hs)
              | (apply stepWith heq; (focus (with_reducible apply (hs.step ∘ ((Grows.refl _).generateBoundsCheck)); done)); clear hs; intro hs)
              | (apply stepWith heq; (focus (with_reducible apply (hs.step ∘ (Grows.appendElements (fun e _ => exprOK e) (Grows.refl _))); done)); clear hs; intro hs)
              | (apply stepWith heq; (focus (with_reducible apply (hs.step ∘ (Grows.callArguments (fun e _ => exprOK e) (Grows.refl _))); done)); clear hs; intro hs)
              | (apply stepWith heq; (focus (with_reducible apply (hs.step ∘ (Grows.printfArguments (fun e _ => exprOK e) (Grows.refl _))); done)); clear hs; intro hs)
              | (apply stepWith heq; (focus (with_reducible apply (hs.step ∘ (Grows.arrayElements (fun e _ => exprOK e) (Grows.refl _))); done)); clear hs; intro hs)
              | (apply stepWith heq; (focus (with_reducible apply (hs.step ∘ ((Grows.refl _).bindLiteralParameters)); done)); clear hs; intro hs)
              | (apply stepWith heq; (focus (with_reducible apply (hs.step ∘ (Grows.generateBlockStatement (fun s _ => stmtOK s) (Grows.refl _))); done)); clear hs; intro hs)
              | (apply stepWith heq; (focus (with_reducible apply (hs.step ∘ ((Grows.refl _).implicitReturn)); done)); clear hs; intro hs)
              | (apply stepWith heq; (focus (with_reducible apply (hs.step ∘ ((Grows.refl _).brIfOpen)); done)); clear hs; intro hs)
              | (apply stepWith heq; (focus (with_reducible apply (h.getOrDeclare); done)); clear h; intro h)
              | (apply stepWith heq; (focus (with_reducible apply (h.resolveCallee); done)); clear h; intro h)
              | (apply stepWith heq; (focus (with_reducible apply (h.generateStringLiteral); done)); clear h; intro h)
              | (apply stepWith heq; (focus (with_reducible apply (h.NewInst); done)); clear h; intro h)
              | (apply stepWith heq; (focus (with_reducible apply (h.NewStore); done)); clear h; intro h)
              | (apply stepWith heq; (focus (with_reducible apply (h.NewTerm); done)); clear h; intro h)
              | (apply stepWith heq; (focus (with_reducible apply (h.NewBlock); done)); clear h; intro h)
              | (apply stepWith heq; (focus (with_reducible apply (h.generateExpression); done)); clear h; intro h)
              | (apply stepWith heq; (focus (with_reducible apply (h.appendPrologue); done)); clear h; intro h)
              | (apply stepWith heq; (focus (with_reducible apply (h.appendEpilogue); done)); clear h; intro h)
              | (apply stepWith heq; (focus (with_reducible apply (h.generateBoundsCheck); done)); clear h; intro h)
              | (apply stepWith heq; (focus (with_reducible apply (Grows.appendElements (fun e _ => exprOK e) h); done)); clear h; intro h)
              | (apply stepWith heq; (focus (with_reducible apply (Grows.callArguments (fun e _ => exprOK e) h); done)); clear h; intro h)
              | (apply stepWith heq; (focus (with_reducible apply (Grows.printfArguments (fun e _ => exprOK e) h); done)); clear h; intro h)
              | (apply stepWith heq; (focus (with_reducible apply (Grows.arrayElements (fun e _ => exprOK e) h); done)); clear h; intro h)
              | (apply stepWith heq; (focus (with_reducible apply (h.bindLiteralParameters); done)); clear h; intro h)
              | (apply stepWith heq; (focus (with_reducible apply (Grows.generateBlockStatement (fun s _ => stmtOK s) h); done)); clear h; intro h)
              | (apply stepWith heq; (focus (with_reducible apply (h.implicitReturn); done)); clear h; intro h)
              | (apply stepWith heq; (focus (with_reducible apply (h.brIfOpen); done)); clear h; intro h)
              | fail))
    | (cases e; first | done | exact hs.extend | exact h.report _ | fail)
    | (dsimp only at e)
    | fail)

theorem NilOK.of_arrayLiteral {elements : List Expression} (ih : ∀ a rest, elements = a :: rest → NilOK a) :
    NilOK (.ArrayLiteral elements) := by
  constructor
  intro x g' e
  have h : Grows x x := Grows.refl x
  rw [generateExpression_arrayLiteral_eq] at e
  try simp only [IRGenerator.NewAlloca, IRGenerator.NewLoad, IRGenerator.NewBin, IRGenerator.NewICmp, IRGenerator.NewFCmp, IRGenerator.NewGetElementPtr, IRGenerator.funcValue, NewCall_func, IRGenerator.NewCall, IRGenerator.NewZExt, IRGenerator.NewSelect, IRGenerator.NewBr, IRGenerator.NewCondBr, IRGenerator.NewRet, IRGenerator.NewUnreachable, IRGenerator.NewFunc, IRGenerator.NewGlobalDef] at e
  repeat' (first
    | (with_reducible first
        | (revert e; apply (hs.step ∘ ((Grows.refl _).NewInst)); done)
        | (revert e; apply (hs.step ∘ ((Grows.refl _).NewStore)); done)
        | (revert e; apply (hs.step ∘ ((Grows.refl _).NewTerm)); done)
        | (revert e; apply (hs.step ∘ ((Grows.refl _).NewBlock)); done)
        | (revert e; apply (hs.step ∘ ((Grows.refl _).generateExpression)); done)
        | (revert e; apply (hs.step ∘ ((Grows.refl _).appendPrologue)); done)
        | (revert e; apply (hs.step ∘ ((Grows.refl _).appendEpilogue)); done)
        | (revert e; apply (hs.step ∘ ((Grows.refl _).generateBoundsCheck)); done)
        | (revert e; apply (hs.step ∘ (Grows.appendElements (fun e _ => exprOK e) (Grows.refl _))); done)
        | (revert e; apply (hs.step ∘ (Grows.callArguments (fun e _ => exprOK e) (Grows.refl _))); done)
        | (revert e; apply (hs.step ∘ (Grows.printfArguments (fun e _ => exprOK e) (Grows.refl _))); done)
        | (revert e; apply (hs.step ∘ (Grows.arrayElements (fun e _ => exprOK e) (Grows.refl _))); done)
        | (revert e; apply (hs.step ∘ ((Grows.refl _).bindLiteralParameters)); done)
        | (revert e; apply (hs.step ∘ (Grows.generateBlockStatement (fun s _ => stmtOK s) (Grows.refl _))); done)
        | (revert e; apply (hs.step ∘ ((Grows.refl _).implicitReturn)); done)
        | (revert e; apply (hs.step ∘ ((Grows.refl _).brIfOpen)); done)
        | (revert e; apply (hs.step ∘ ((Grows.refl _).asResult)); done)
        | (revert e; apply (hs.step ∘ ((Grows.refl _).failWith)); done)
        | (revert e; apply (hs.step ∘ ((Grows.refl _).generateIdentifier)); done)
        | (revert e; apply (hs.step ∘ ((Grows.refl _).prefixOperator)); done)
        | (revert e; apply (hs.step ∘ ((Grows.refl _).generatePostfixExpression)); done)
        | (revert e; apply (hs.step ∘ ((Grows.refl _).generateStringConcatenation)); done)
        | (revert e; apply (hs.step ∘ ((Grows.refl _).infixOperator)); done)
        | (revert e; apply (hs.step ∘ ((Grows.refl _).indexAccess)); done)
        | (revert e; apply (hs.step ∘ ((Grows.refl _).lenOrCap)); done)
        | (revert e; apply (hs.step ∘ ((Grows.refl _).makeSlice)); done)
        | (revert e; apply (hs.step ∘ ((Grows.refl _).printfNoArguments)); done)
        | (revert e; apply (hs.step ∘ ((Grows.refl _).printfCall)); done)
        | (revert e; apply (hs.step ∘ (Grows.generateLenCall (fun e _ => exprOK e) (Grows.refl _))); done)
        | (revert e; apply (hs.step ∘ (Grows.generateCapCall (fun e _ => exprOK e) (Grows.refl _))); done)
        | (revert e; apply (hs.step ∘ (Grows.generateAppendCall (fun e _ => exprOK e) (Grows.refl _))); done)
        | (revert e; apply (hs.step ∘ (Grows.generateMakeCall (fun e _ => exprOK e) (Grows.refl _))); done)
        | (revert e; apply (hs.step ∘ (Grows.generateExitCall (fun e _ => exprOK e) (Grows.refl _))); done)
        | (revert e; apply (h.asResult_nil); done)
        | (revert e; apply (h.failWith_nil); done)
        | (revert e; apply (h.strict ∘ ((ih _ _ rfl).strict)); done)
        | fail)
    | (apply stepWith e; (focus (with_reducible apply (@ite_ok _ _ _ _ _ _); done)); intro e2
       clear e
       rcases e2 with ⟨_, e⟩ | ⟨_, e⟩)
    | (simp only [bind_assoc, pure_bind] at e)
    | (rw [bind_ok] at e
       obtain ⟨⟨x1, g1⟩, e1, e⟩ := e
       try dsimp only at e
       first
         | (apply stepWith e1; (focus (with_reducible apply (hs.step ∘ ((Grows.refl _).NewInst)); done)); clear hs; intro hs)
         | (apply stepWith e1; (focus (with_reducible apply (hs.step ∘ ((Grows.refl _).NewStore)); done)); clear hs; intro hs)
         | (apply stepWith e1; (focus (with_reducible apply (hs.step ∘ ((Grows.refl _).NewTerm)); done)); clear hs; intro hs)
         | (apply stepWith e1; (focus (with_reducible apply (hs.step ∘ ((Grows.refl _).NewBlock)); done)); clear hs; intro hs)
         | (apply stepWith e1; (focus (with_reducible apply (hs.step ∘ ((Grows.refl _).generateExpression)); done)); clear hs; intro hs)
         | (apply stepWith e1; (focus (with_reducible apply (hs.step ∘ ((Grows.refl _).appendPrologue)); done)); clear hs; intro hs)
         | (apply stepWith e1; (focus (with_reducible apply (hs.step ∘ ((Grows.refl _).appendEpilogue)); done)); clear hs; intro hs)
         | (apply stepWith e1; (focus (with_reducible apply (hs.step ∘ ((Grows.refl _).generateBoundsCheck)); done)); clear hs; intro hs)
         | (apply stepWith e1; (focus (with_reducible apply (hs.step ∘ (Grows.appendElements (fun e _ => exprOK e) (Grows.refl _))); done)); clear hs; intro hs)
         | (apply stepWith e1; (focus (with_reducible apply (hs.step ∘ (Grows.callArguments (fun e _ => exprOK e) (Grows.refl _))); done)); clear hs; intro hs)
         | (apply stepWith e1; (focus (with_reducible apply (hs.step ∘ (Grows.printfArguments (fun e _ => exprOK e) (Grows.refl _))); done)); clear hs; intro hs)
         | (apply stepWith e1; (focus (with_reducible apply (hs.step ∘ (Grows.arrayElements (fun e _ => exprOK e) (Grows.refl _))); done)); clear hs; intro hs)
         | (apply stepWith e1; (focus (with_reducible apply (hs.step ∘ ((Grows.refl _).bindLiteralParameters)); done)); clear hs; intro hs)
         | (apply stepWith e1; (focus (with_reducible apply (hs.step ∘ (Grows.generateBlockStatement (fun s _ => stmtOK s) (Grows.refl _))); done)); clear hs; intro hs)
         | (apply stepWith e1; (focus (with_reducible apply (hs.step ∘ ((Grows.refl _).implicitReturn)); done)); clear hs; intro hs)
         | (apply stepWith e1; (focus (with_reducible apply (hs.step ∘ ((Grows.refl _).brIfOpen)); done)); clear hs; intro hs)
         | (have hg := h.generateExpressionOf _ e1
            rcases x1 with _ | v1 <;>
              first | (have hs := h.strict ((ih _ _ rfl).strict e1)) | (replace h := hg))
         | (apply stepWith e1; (focus (with_reducible apply (h.NewInst); done)); clear h; intro h)
         | (apply stepWith e1; (focus (with_reducible apply (h.NewStore); done)); clear h; intro h)
         | (apply stepWith e1; (focus (with_reducible apply (h.NewTerm); done)); clear h; intro h)
         | (apply stepWith e1; (focus (with_reducible apply (h.NewBlock); done)); clear h; intro h)
         | (apply stepWith e1; (focus (with_reducible apply (h.generateExpression); done)); clear h; intro h)
         | (apply stepWith e1; (focus (with_reducible apply (h.appendPrologue); done)); clear h; intro h)
         | (apply stepWith e1; (focus (with_reducible apply (h.appendEpilogue); done)); clear h; intro h)
         | (apply stepWith e1; (focus (with_reducible apply (h.generateBoundsCheck); done)); clear h; intro h)
         | (apply stepWith e1; (focus (with_reducible apply (Grows.appendElements (fun e _ => exprOK e) h); done)); clear h; intro h)
         | (apply stepWith e1; (focus (with_reducible apply (Grows.callArguments (fun e _ => exprOK e) h); done)); clear h; intro h)
         | (apply stepWith e1; (focus (with_reducible apply (Grows.printfArguments (fun e _ => exprOK e) h); done)); clear h; intro h)
         | (apply stepWith e1; (focus (with_reducible apply (Grows.arrayElements (fun e _ => exprOK e) h); done)); clear h; intro h)
         | (apply stepWith e1; (focus (with_reducible apply (h.bindLiteralParameters); done)); clear h; intro h)
         | (apply stepWith e1; (focus (with_reducible apply (Grows.generateBlockStatement (fun s _ => stmtOK s) h); done)); clear h; intro h)
         | (apply stepWith e1; (focus (with_reducible apply (h.implicitReturn); done)); clear h; intro h)
         | (apply stepWith e1; (focus (with_reducible apply (h.brIfOpen); done)); clear h; intro h)
         | (cases e1)
         | fail)
    | (split at e <;>
       try (rename_i heq
            first
              | (apply stepWith heq; (focus (with_reducible apply (hs.step ∘ ((Grows.refl _).getOrDeclare)); done)); clear hs; intro hs)
              | (apply stepWith heq; (focus (with_reducible apply (hs.step ∘ ((Grows.refl _).resolveCallee)); done)); clear hs; intro hs)
              | (apply stepWith heq; (focus (with_reducible apply (hs.step ∘ ((Grows.refl _).generateStringLiteral)); done)); clear hs; intro hs)
              | (apply stepWith heq; (focus (with_reducible apply (hs.step ∘ ((Grows.refl _).NewInst)); done)); clear hs; intro hs)
              | (apply stepWith heq; (focus (with_reducible apply (hs.step ∘ ((Grows.refl _).NewStore)); done)); clear hs; intro hs)
              | (apply stepWith heq; (focus (with_reducible apply (hs.step ∘ ((Grows.refl _).NewTerm)); done)); clear hs; intro hs)
              | (apply stepWith heq; (focus (with_reducible apply (hs.step ∘ ((Grows.refl _).NewBlock)); done)); clear hs; intro hs)
              | (apply stepWith heq; (focus (with_reducible apply (hs.step ∘ ((Grows.refl _).generateExpression)); done)); clear hs; intro hs)
              | (apply stepWith heq; (focus (with_reducible apply (hs.step ∘ ((Grows.refl _).appendPrologue)); done)); clear hs; intro hs)
              | (apply stepWith heq; (focus (with_reducible apply (hs.step ∘ ((Grows.refl _).appendEpilogue)); done)); clear hs; intro hs)
              | (apply stepWith heq; (focus (with_reducible apply (hs.step ∘ ((Grows.refl _).generateBoundsCheck)); done)); clear hs; intro hs)
              | (apply stepWith heq; (focus (with_reducible apply (hs.step ∘ (Grows.appendElements (fun e _ => exprOK e) (Grows.refl _))); done)); clear hs; intro hs)
              | (apply stepWith heq; (focus (with_reducible apply (hs.step ∘ (Grows.callArguments (fun e _ => exprOK e) (Grows.refl _))); done)); clear hs; intro hs)
              | (apply stepWith heq; (focus (with_reducible apply (hs.step ∘ (Grows.printfArguments (fun e _ => exprOK e) (Grows.refl _))); done)); clear hs; intro hs)
              | (apply stepWith heq; (focus (with_reducible apply (hs.step ∘ (Grows.arrayElements (fun e _ => exprOK e) (Grows.refl _))); done)); clear hs; intro hs)
              | (apply stepWith heq; (focus (with_reducible apply (hs.step ∘ ((Grows.refl _).bindLiteralParameters)); done)); clear hs; intro hs)
              | (apply stepWith heq; (focus (with_reducible apply (hs.step ∘ (Grows.generateBlockStatement (fun s _ => stmtOK s) (Grows.refl _))); done)); clear hs; intro hs)
              | (apply stepWith heq; (focus (with_reducible apply (hs.step ∘ ((Grows.refl _).implicitReturn)); done)); clear hs; intro hs)
              | (apply stepWith heq; (focus (with_reducible apply (hs.step ∘ ((Grows.refl _).brIfOpen)); done)); clear hs; intro hs)
              | (apply stepWith heq; (focus (with_reducible apply (h.getOrDeclare); done)); clear h; intro h)
              | (apply stepWith heq; (focus (with_reducible apply (h.resolveCallee); done)); clear h; intro h)
              | (apply stepWith heq; (focus (with_reducible apply (h.generateStringLiteral); done)); clear h; intro h)
              | (apply stepWith heq; (focus (with_reducible apply (h.NewInst); done)); clear h; intro h)
              | (apply stepWith heq; (focus (with_reducible apply (h.NewStore); done)); clear h; intro h)
              | (apply stepWith heq; (focus (with_reducible apply (h.NewTerm); done)); clear h; intro h)
              | (apply stepWith heq; (focus (with_reducible apply (h.NewBlock); done)); clear h; intro h)
              | (apply stepWith heq; (focus (with_reducible apply (h.generateExpression); done)); clear h; intro h)
              | (apply stepWith heq; (focus (with_reducible apply (h.appendPrologue); done)); clear h; intro h)
              | (apply stepWith heq; (focus (with_reducible apply (h.appendEpilogue); done)); clear h; intro h)
              | (apply stepWith heq; (focus (with_reducible apply (h.generateBoundsCheck); done)); clear h; intro h)
              | (apply stepWith heq; (focus (with_reducible apply (Grows.appendElements (fun e _ => exprOK e) h); done)); clear h; intro h)
              | (apply stepWith heq; (focus (with_reducible apply (Grows.callArguments (fun e _ => exprOK e) h); done)); clear h; intro h)
              | (apply stepWith heq; (focus (with_reducible apply (Grows.printfArguments (fun e _ => exprOK e) h); done)); clear h; intro h)
              | (apply stepWith heq; (focus (with_reducible apply (Grows.arrayElements (fun e _ => exprOK e) h); done)); clear h; intro h)
              | (apply stepWith heq; (focus (with_reducible apply (h.bindLiteralParameters); done)); clear h; intro h)
              | (apply stepWith heq; (focus (with_reducible apply (Grows.generateBlockStatement (fun s _ => stmtOK s) h); done)); clear h; intro h)
              | (apply stepWith heq; (focus (with_reducible apply (h.implicitReturn); done)); clear h; intro h)
              | (apply stepWith heq; (focus (with_reducible apply (h.brIfOpen); done)); clear h; intro h)
              | fail))
    | (cases e; first | done | exact hs.extend | exact h.report _ | fail)
    | (dsimp only at e)
    | fail)

theorem NilOK.of_indexExpression {left index : Expression} (ihl : NilOK left) (ihi : NilOK index) :
    NilOK (.IndexExpression left index) := by
  constructor
  intro x g' e
  have h : Grows x x := Grows.refl x
  rw [generateExpression_indexExpression_eq] at e
  try simp only [IRGenerator.NewAlloca, IRGenerator.NewLoad, IRGenerator.NewBin, IRGenerator.NewICmp, IRGenerator.NewFCmp, IRGenerator.NewGetElementPtr, IRGenerator.funcValue, NewCall_func, IRGenerator.NewCall, IRGenerator.NewZExt, IRGenerator.NewSelect, IRGenerator.NewBr, IRGenerator.NewCondBr, IRGenerator.NewRet, IRGenerator.NewUnreachable, IRGenerator.NewFunc, IRGenerator.NewGlobalDef] at e
  repeat' (first
    | (with_reducible first
        | (revert e; apply (hs.step ∘ ((Grows.refl _).NewInst)); done)
        | (revert e; apply (hs.step ∘ ((Grows.refl _).NewStore)); done)
        | (revert e; apply (hs.step ∘ ((Grows.refl _).NewTerm)); done)
        | (revert e; apply (hs.step ∘ ((Grows.refl _).NewBlock)); done)
        | (revert e; apply (hs.step ∘ ((Grows.refl _).generateExpression)); done)
        | (revert e; apply (hs.step ∘ ((Grows.refl _).appendPrologue)); done)
        | (revert e; apply (hs.step ∘ ((Grows.refl _).appendEpilogue)); done)
        | (revert e; apply (hs.step ∘ ((Grows.refl _).generateBoundsCheck)); done)
        | (revert e; apply (hs.step ∘ (Grows.appendElements (fun e _ => exprOK e) (Grows.refl _))); done)
        | (revert e; apply (hs.step ∘ (Grows.callArguments (fun e _ => exprOK e) (Grows.refl _))); done)
        | (revert e; apply (hs.step ∘ (Grows.printfArguments (fun e _ => exprOK e) (Grows.refl _))); done)
        | (revert e; apply (hs.step ∘ (Grows.arrayElements (fun e _ => exprOK e) (Grows.refl _))); done)
        | (revert e; apply (hs.step ∘ ((Grows.refl _).bindLiteralParameters)); done)
        | (revert e; apply (hs.step ∘ (Grows.generateBlockStatement (fun s _ => stmtOK s) (Grows.refl _))); done)
        | (revert e; apply (hs.step ∘ ((Grows.refl _).implicitReturn)); done)
        | (revert e; apply (hs.step ∘ ((Grows.refl _).brIfOpen)); done)
        | (revert e; apply (hs.step ∘ ((Grows.refl _).asResult)); done)
        | (revert e; apply (hs.step ∘ ((Grows.refl _).failWith)); done)
        | (revert e; apply (hs.step ∘ ((Grows.refl _).generateIdentifier)); done)
        | (revert e; apply (hs.step ∘ ((Grows.refl _).prefixOperator)); done)
        | (revert e; apply (hs.step ∘ ((Grows.refl _).generatePostfixExpression)); done)
        | (revert e; apply (hs.step ∘ ((Grows.refl _).generateStringConcatenation)); done)
        | (revert e; apply (hs.step ∘ ((Grows.refl _).infixOperator)); done)
        | (revert e; apply (hs.step ∘ ((Grows.refl _).indexAccess)); done)
        | (revert e; apply (hs.step ∘ ((Grows.refl _).lenOrCap)); done)
        | (revert e; apply (hs.step ∘ ((Grows.refl _).makeSlice)); done)
        | (revert e; apply (hs.step ∘ ((Grows.refl _).printfNoArguments)); done)
        | (revert e; apply (hs.step ∘ ((Grows.refl _).printfCall)); done)
        | (revert e; apply (hs.step ∘ (Grows.generateLenCall (fun e _ => exprOK e) (Grows.refl _))); done)
        | (revert e; apply (hs.step ∘ (Grows.generateCapCall (fun e _ => exprOK e) (Grows.refl _))); done)
        | (revert e; apply (hs.step ∘ (Grows.generateAppendCall (fun e _ => exprOK e) (Grows.refl _))); done)
        | (revert e; apply (hs.step ∘ (Grows.generateMakeCall (fun e _ => exprOK e) (Grows.refl _))); done)
        | (revert e; apply (hs.step ∘ (Grows.generateExitCall (fun e _ => exprOK e) (Grows.refl _))); done)
        | (revert e; apply (h.asResult_nil); done)
        | (revert e; apply (h.failWith_nil); done)
        | (revert e; apply (h.indexAccess_nil); done)
        | (revert e; apply (h.strict ∘ (ihl.strict)); done)
        | (revert e; apply (h.strict ∘ (ihi.strict)); done)
        | fail)
    | (apply stepWith e; (focus (with_reducible apply (@ite_ok _ _ _ _ _ _); done)); intro e2
       clear e
       rcases e2 with ⟨_, e⟩ | ⟨_, e⟩)
    | (simp only [bind_assoc, pure_bind] at e)
    | (rw [bind_ok] at e
       obtain ⟨⟨x1, g1⟩, e1, e⟩ := e
       try dsimp only at e
       first
         | (apply stepWith e1; (focus (with_reducible apply (hs.step ∘ ((Grows.refl _).NewInst)); done)); clear hs; intro hs)
         | (apply stepWith e1; (focus (with_reducible apply (hs.step ∘ ((Grows.refl _).NewStore)); done)); clear hs; intro hs)
         | (apply stepWith e1; (focus (with_reducible apply (hs.step ∘ ((Grows.refl _).NewTerm)); done)); clear hs; intro hs)
         | (apply stepWith e1; (focus (with_reducible apply (hs.step ∘ ((Grows.refl _).NewBlock)); done)); clear hs; intro hs)
         | (apply stepWith e1; (focus (with_reducible apply (hs.step ∘ ((Grows.refl _).generateExpression)); done)); clear hs; intro hs)
         | (apply stepWith e1; (focus (with_reducible apply (hs.step ∘ ((Grows.refl _).appendPrologue)); done)); clear hs; intro hs)
         | (apply stepWith e1; (focus (with_reducible apply (hs.step ∘ ((Grows.refl _).appendEpilogue)); done)); clear hs; intro hs)
         | (apply stepWith e1; (focus (with_reducible apply (hs.step ∘ ((Grows.refl _).generateBoundsCheck)); done)); clear hs; intro hs)
         | (apply stepWith e1; (focus (with_reducible apply (hs.step ∘ (Grows.appendElements (fun e _ => exprOK e) (Grows.refl _))); done)); clear hs; intro hs)
         | (apply stepWith e1; (focus (with_reducible apply (hs.step ∘ (Grows.callArguments (fun e _ => exprOK e) (Grows.refl _))); done)); clear hs; intro hs)
         | (apply stepWith e1; (focus (with_reducible apply (hs.step ∘ (Grows.printfArguments (fun e _ => exprOK e) (Grows.refl _))); done)); clear hs; intro hs)
         | (apply stepWith e1; (focus (with_reducible apply (hs.step ∘ (Grows.arrayElements (fun e _ => exprOK e) (Grows.refl _))); done)); clear hs; intro hs)
         | (apply stepWith e1; (focus (with_reducible apply (hs.step ∘ ((Grows.refl _).bindLiteralParameters)); done)); clear hs; intro hs)
         | (apply stepWith e1; (focus (with_reducible apply (hs.step ∘ (Grows.generateBlockStatement (fun s _ => stmtOK s) (Grows.refl _))); done)); clear hs; intro hs)
         | (apply stepWith e1; (focus (with_reducible apply (hs.step ∘ ((Grows.refl _).implicitReturn)); done)); clear hs; intro hs)
         | (apply stepWith e1; (focus (with_reducible apply (hs.step ∘ ((Grows.refl _).brIfOpen)); done)); clear hs; intro hs)
         | (have hg := h.generateExpressionOf left e1
            rcases x1 with _ | v1 <;>
              first | (have hs := h.strict (ihl.strict e1)) | (replace h := hg))
         | (have hg := h.generateExpressionOf index e1
            rcases x1 with _ | v1 <;>
              first | (have hs := h.strict (ihi.strict e1)) | (replace h := hg))
         | (apply stepWith e1; (focus (with_reducible apply (h.NewInst); done)); clear h; intro h)
         | (apply stepWith e1; (focus (with_reducible apply (h.NewStore); done)); clear h; intro h)
         | (apply stepWith e1; (focus (with_reducible apply (h.NewTerm); done)); clear h; intro h)
         | (apply stepWith e1; (focus (with_reducible apply (h.NewBlock); done)); clear h; intro h)
         | (apply stepWith e1; (focus (with_reducible apply (h.generateExpression); done)); clear h; intro h)
         | (apply stepWith e1; (focus (with_reducible apply (h.appendPrologue); done)); clear h; intro h)
         | (apply stepWith e1; (focus (with_reducible apply (h.appendEpilogue); done)); clear h; intro h)
         | (apply stepWith e1; (focus (with_reducible apply (h.generateBoundsCheck); done)); clear h; intro h)
         | (apply stepWith e1; (focus (with_reducible apply (Grows.appendElements (fun e _ => exprOK e) h); done)); clear h; intro h)
         | (apply stepWith e1; (focus (with_reducible apply (Grows.callArguments (fun e _ => exprOK e) h); done)); clear h; intro h)
         | (apply stepWith e1; (focus (with_reducible apply (Grows.printfArguments (fun e _ => exprOK e) h); done)); clear h; intro h)
         | (apply stepWith e1; (focus (with_reducible apply (Grows.arrayElements (fun e _ => exprOK e) h); done)); clear h; intro h)
         | (apply stepWith e1; (focus (with_reducible apply (h.bindLiteralParameters); done)); clear h; intro h)
         | (apply stepWith e1; (focus (with_reducible apply (Grows.generateBlockStatement (fun s _ => stmtOK s) h); done)); clear h; intro h)
         | (apply stepWith e1; (focus (with_reducible apply (h.implicitReturn); done)); clear h; intro h)
         | (apply stepWith e1; (focus (with_reducible apply (h.brIfOpen); done)); clear h; intro h)
         | (cases e1)
         | fail)
    | (split at e <;>
       try (rename_i heq
            first
              | (apply stepWith heq; (focus (with_reducible apply (hs.step ∘ ((Grows.refl _).getOrDeclare)); done)); clear hs; intro hs)
              | (apply stepWith heq; (focus (with_reducible apply (hs.step ∘ ((Grows.refl _).resolveCallee)); done)); clear hs; intro hs)
              | (apply stepWith heq; (focus (with_reducible apply (hs.step ∘ ((Grows.refl _).generateStringLiteral)); done)); clear hs; intro hs)
              | (apply stepWith heq; (focus (with_reducible apply (hs.step ∘ ((Grows.refl _).NewInst)); done)); clear hs; intro hs)
              | (apply stepWith heq; (focus (with_reducible apply (hs.step ∘ ((Grows.refl _).NewStore)); done)); clear hs; intro hs)
              | (apply stepWith heq; (focus (with_reducible apply (hs.step ∘ ((Grows.refl _).NewTerm)); done)); clear hs; intro hs)
              | (apply stepWith heq; (focus (with_reducible apply (hs.step ∘ ((Grows.refl _).NewBlock)); done)); clear hs; intro hs)
              | (apply stepWith heq; (focus (with_reducible apply (hs.step ∘ ((Grows.refl _).generateExpression)); done)); clear hs; intro hs)
              | (apply stepWith heq; (focus (with_reducible apply (hs.step ∘ ((Grows.refl _).appendPrologue)); done)); clear hs; intro hs)
              | (apply stepWith heq; (focus (with_reducible apply (hs.step ∘ ((Grows.refl _).appendEpilogue)); done)); clear hs; intro hs)
              | (apply stepWith heq; (focus (with_reducible apply (hs.step ∘ ((Grows.refl _).generateBoundsCheck)); done)); clear hs; intro hs)
              | (apply stepWith heq; (focus (with_reducible apply (hs.step ∘ (Grows.appendElements (fun e _ => exprOK e) (Grows.refl _))); done)); clear hs; intro hs)
              | (apply stepWith heq; (focus (with_reducible apply (hs.step ∘ (Grows.callArguments (fun e _ => exprOK e) (Grows.refl _))); done)); clear hs; intro hs)
              | (apply stepWith heq; (focus (with_reducible apply (hs.step ∘ (Grows.printfArguments (fun e _ => exprOK e) (Grows.refl _))); done)); clear hs; intro hs)
              | (apply stepWith heq; (focus (with_reducible apply (hs.step ∘ (Grows.arrayElements (fun e _ => exprOK e) (Grows.refl _))); done)); clear hs; intro hs)
              | (apply stepWith heq; (focus (with_reducible apply (hs.step ∘ ((Grows.refl _).bindLiteralParameters)); done)); clear hs; intro hs)
              | (apply stepWith heq; (focus (with_reducible apply (hs.step ∘ (Grows.generateBlockStatement (fun s _ => stmtOK s) (Grows.refl _))); done)); clear hs; intro hs)
              | (apply stepWith heq; (focus (with_reducible apply (hs.step ∘ ((Grows.refl _).implicitReturn)); done)); clear hs; intro hs)
              | (apply stepWith heq; (focus (with_reducible apply (hs.step ∘ ((Grows.refl _).brIfOpen)); done)); clear hs; intro hs)
              | (apply stepWith heq; (focus (with_reducible apply (h.getOrDeclare); done)); clear h; intro h)
              | (apply stepWith heq; (focus (with_reducible apply (h.resolveCallee); done)); clear h; intro h)
              | (apply stepWith heq; (focus (with_reducible apply (h.generateStringLiteral); done)); clear h; intro h)
              | (apply stepWith heq; (focus (with_reducible apply (h.NewInst); done)); clear h; intro h)
              | (apply stepWith heq; (focus (with_reducible apply (h.NewStore); done)); clear h; intro h)
              | (apply stepWith heq; (focus (with_reducible apply (h.NewTerm); done)); clear h; intro h)
              | (apply stepWith heq; (focus (with_reducible apply (h.NewBlock); done)); clear h; intro h)
              | (apply stepWith heq; (focus (with_reducible apply (h.generateExpression); done)); clear h; intro h)
              | (apply stepWith heq; (focus (with_reducible apply (h.appendPrologue); done)); clear h; intro h)
              | (apply stepWith heq; (focus (with_reducible apply (h.appendEpilogue); done)); clear h; intro h)
              | (apply stepWith heq; (focus (with_reducible apply (h.generateBoundsCheck); done)); clear h; intro h)
              | (apply stepWith heq; (focus (with_reducible apply (Grows.appendElements (fun e _ => exprOK e) h); done)); clear h; intro h)
              | (apply stepWith heq; (focus (with_reducible apply (Grows.callArguments (fun e _ => exprOK e) h); done)); clear h; intro h)
              | (apply stepWith heq; (focus (with_reducible apply (Grows.printfArguments (fun e _ => exprOK e) h); done)); clear h; intro h)
              | (apply stepWith heq; (focus (with_reducible apply (Grows.arrayElements (fun e _ => exprOK e) h); done)); clear h; intro h)
              | (apply stepWith heq; (focus (with_reducible apply (h.bindLiteralParameters); done)); clear h; intro h)
              | (apply stepWith heq; (focus (with_reducible apply (Grows.generateBlockStatement (fun s _ => stmtOK s) h); done)); clear h; intro h)
              | (apply stepWith heq; (focus (with_reducible apply (h.implicitReturn); done)); clear h; intro h)
              | (apply stepWith heq; (focus (with_reducible apply (h.brIfOpen); done)); clear h; intro h)
              | fail))
    | (cases e; first | done | exact hs.extend | exact h.report _ | fail)
    | (dsimp only at e)
    | fail)

theorem NilOK.of_arrayType (size : Option Expression) (elementType : Expression) :
    NilOK (.ArrayType size elementType) := by
  constructor
  intro x g' e
  have h : Grows x x := Grows.refl x
  rw [generateExpression_arrayType_eq] at e
  try simp only [IRGenerator.NewAlloca, IRGenerator.NewLoad, IRGenerator.NewBin, IRGenerator.NewICmp, IRGenerator.NewFCmp, IRGenerator.NewGetElementPtr, IRGenerator.funcValue, NewCall_func, IRGenerator.NewCall, IRGenerator.NewZExt, IRGenerator.NewSelect, IRGenerator.NewBr, IRGenerator.NewCondBr, IRGenerator.NewRet, IRGenerator.NewUnreachable, IRGenerator.NewFunc, IRGenerator.NewGlobalDef] at e
  repeat' (first
    | (with_reducible first
        | (revert e; apply (hs.step ∘ ((Grows.refl _).NewInst)); done)
        | (revert e; apply (hs.step ∘ ((Grows.refl _).NewStore)); done)
        | (revert e; apply (hs.step ∘ ((Grows.refl _).NewTerm)); done)
        | (revert e; apply (hs.step ∘ ((Grows.refl _).NewBlock)); done)
        | (revert e; apply (hs.step ∘ ((Grows.refl _).generateExpression)); done)
        | (revert e; apply (hs.step ∘ ((Grows.refl _).appendPrologue)); done)
        | (revert e; apply (hs.step ∘ ((Grows.refl _).appendEpilogue)); done)
        | (revert e; apply (hs.step ∘ ((Grows.refl _).generateBoundsCheck)); done)
        | (revert e; apply (hs.step ∘ (Grows.appendElements (fun e _ => exprOK e) (Grows.refl _))); done)
        | (revert e; apply (hs.step ∘ (Grows.callArguments (fun e _ => exprOK e) (Grows.refl _))); done)
        | (revert e; apply (hs.step ∘ (Grows.printfArguments (fun e _ => exprOK e) (Grows.refl _))); done)
        | (revert e; apply (hs.step ∘ (Grows.arrayElements (fun e _ => exprOK e) (Grows.refl _))); done)
        | (revert e; apply (hs.step ∘ ((Grows.refl _).bindLiteralParameters)); done)
        | (revert e; apply (hs.step ∘ (Grows.generateBlockStatement (fun s _ => stmtOK s) (Grows.refl _))); done)
        | (revert e; apply (hs.step ∘ ((Grows.refl _).implicitReturn)); done)
        | (revert e; apply (hs.step ∘ ((Grows.refl _).brIfOpen)); done)
        | (revert e; apply (hs.step ∘ ((Grows.refl _).asResult)); done)
        | (revert e; apply (hs.step ∘ ((Grows.refl _).failWith)); done)
        | (revert e; apply (hs.step ∘ ((Grows.refl _).generateIdentifier)); done)
        | (revert e; apply (hs.step ∘ ((Grows.refl _).prefixOperator)); done)
        | (revert e; apply (hs.step ∘ ((Grows.refl _).generatePostfixExpression)); done)
        | (revert e; apply (hs.step ∘ ((Grows.refl _).generateStringConcatenation)); done)
        | (revert e; apply (hs.step ∘ ((Grows.refl _).infixOperator)); done)
        | (revert e; apply (hs.step ∘ ((Grows.refl _).indexAccess)); done)
        | (revert e; apply (hs.step ∘ ((Grows.refl _).lenOrCap)); done)
        | (revert e; apply (hs.step ∘ ((Grows.refl _).makeSlice)); done)
        | (revert e; apply (hs.step ∘ ((Grows.refl _).printfNoArguments)); done)
        | (revert e; apply (hs.step ∘ ((Grows.refl _).printfCall)); done)
        | (revert e; apply (hs.step ∘ (Grows.generateLenCall (fun e _ => exprOK e) (Grows.refl _))); done)
        | (revert e; apply (hs.step ∘ (Grows.generateCapCall (fun e _ => exprOK e) (Grows.refl _))); done)
        | (revert e; apply (hs.step ∘ (Grows.generateAppendCall (fun e _ => exprOK e) (Grows.refl _))); done)
        | (revert e; apply (hs.step ∘ (Grows.generateMakeCall (fun e _ => exprOK e) (Grows.refl _))); done)
        | (revert e; apply (hs.step ∘ (Grows.generateExitCall (fun e _ => exprOK e) (Grows.refl _))); done)
        | (revert e; apply (h.asResult_nil); done)
        | (revert e; apply (h.failWith_nil); done)
        | fail)
    | (apply stepWith e; (focus (with_reducible apply (@ite_ok _ _ _ _ _ _); done)); intro e2
       clear e
       rcases e2 with ⟨_, e⟩ | ⟨_, e⟩)
    | (simp only [bind_assoc, pure_bind] at e)
    | (rw [bind_ok] at e
       obtain ⟨⟨x1, g1⟩, e1, e⟩ := e
       try dsimp only at e
       first
         | (apply stepWith e1; (focus (with_reducible apply (hs.step ∘ ((Grows.refl _).NewInst)); done)); clear hs; intro hs)
         | (apply stepWith e1; (focus (with_reducible apply (hs.step ∘ ((Grows.refl _).NewStore)); done)); clear hs; intro hs)
         | (apply stepWith e1; (focus (with_reducible apply (hs.step ∘ ((Grows.refl _).NewTerm)); done)); clear hs; intro hs)
         | (apply stepWith e1; (focus (with_reducible apply (hs.step ∘ ((Grows.refl _).NewBlock)); done)); clear hs; intro hs)
         | (apply stepWith e1; (focus (with_reducible apply (hs.step ∘ ((Grows.refl _).generateExpression)); done)); clear hs; intro hs)
         | (apply stepWith e1; (focus (with_reducible apply (hs.step ∘ ((Grows.refl _).appendPrologue)); done)); clear hs; intro hs)
         | (apply stepWith e1; (focus (with_reducible apply (hs.step ∘ ((Grows.refl _).appendEpilogue)); done)); clear hs; intro hs)
         | (apply stepWith e1; (focus (with_reducible apply (hs.step ∘ ((Grows.refl _).generateBoundsCheck)); done)); clear hs; intro hs)
         | (apply stepWith e1; (focus (with_reducible apply (hs.step ∘ (Grows.appendElements (fun e _ => exprOK e) (Grows.refl _))); done)); clear hs; intro hs)
         | (apply stepWith e1; (focus (with_reducible apply (hs.step ∘ (Grows.callArguments (fun e _ => exprOK e) (Grows.refl _))); done)); clear hs; intro hs)
         | (apply stepWith e1; (focus (with_reducible apply (hs.step ∘ (Grows.printfArguments (fun e _ => exprOK e) (Grows.refl _))); done)); clear hs; intro hs)
         | (apply stepWith e1; (focus (with_reducible apply (hs.step ∘ (Grows.arrayElements (fun e _ => exprOK e) (Grows.refl _))); done)); clear hs; intro hs)
         | (apply stepWith e1; (focus (with_reducible apply (hs.step ∘ ((Grows.refl _).bindLiteralParameters)); done)); clear hs; intro hs)
         | (apply stepWith e1; (focus (with_reducible apply (hs.step ∘ (Grows.generateBlockStatement (fun s _ => stmtOK s) (Grows.refl _))); done)); clear hs; intro hs)
         | (apply stepWith e1; (focus (with_reducible apply (hs.step ∘ ((Grows.refl _).implicitReturn)); done)); clear hs; intro hs)
         | (apply stepWith e1; (focus (with_reducible apply (hs.step ∘ ((Grows.refl _).brIfOpen)); done)); clear hs; intro hs)
         | (apply stepWith e1; (focus (with_reducible apply (h.NewInst); done)); clear h; intro h)
         | (apply stepWith e1; (focus (with_reducible apply (h.NewStore); done)); clear h; intro h)
         | (apply stepWith e1; (focus (with_reducible apply (h.NewTerm); done)); clear h; intro h)
         | (apply stepWith e1; (focus (with_reducible apply (h.NewBlock); done)); clear h; intro h)
         | (apply stepWith e1; (focus (with_reducible apply (h.generateExpression); done)); clear h; intro h)
         | (apply stepWith e1; (focus (with_reducible apply (h.appendPrologue); done)); clear h; intro h)
         | (apply stepWith e1; (focus (with_reducible apply (h.appendEpilogue); done)); clear h; intro h)
         | (apply stepWith e1; (focus (with_reducible apply (h.generateBoundsCheck); done)); clear h; intro h)
         | (apply stepWith e1; (focus (with_reducible apply (Grows.appendElements (fun e _ => exprOK e) h); done)); clear h; intro h)
         | (apply stepWith e1; (focus (with_reducible apply (Grows.callArguments (fun e _ => exprOK e) h); done)); clear h; intro h)
         | (apply stepWith e1; (focus (with_reducible apply (Grows.printfArguments (fun e _ => exprOK e) h); done)); clear h; intro h)
         | (apply stepWith e1; (focus (with_reducible apply (Grows.arrayElements (fun e _ => exprOK e) h); done)); clear h; intro h)
         | (apply stepWith e1; (focus (with_reducible apply (h.bindLiteralParameters); done)); clear h; intro h)
         | (apply stepWith e1; (focus (with_reducible apply (Grows.generateBlockStatement (fun s _ => stmtOK s) h); done)); clear h; intro h)
         | (apply stepWith e1; (focus (with_reducible apply (h.implicitReturn); done)); clear h; intro h)
         | (apply stepWith e1; (focus (with_reducible apply (h.brIfOpen); done)); clear h; intro h)
         | (cases e1)
         | fail)
    | (split at e <;>
       try (rename_i heq
            first
              | (apply stepWith heq; (focus (with_reducible apply (hs.step ∘ ((Grows.refl _).getOrDeclare)); done)); clear hs; intro hs)
              | (apply stepWith heq; (focus (with_reducible apply (hs.step ∘ ((Grows.refl _).resolveCallee)); done)); clear hs; intro hs)
              | (apply stepWith heq; (focus (with_reducible apply (hs.step ∘ ((Grows.refl _).generateStringLiteral)); done)); clear hs; intro hs)
              | (apply stepWith heq; (focus (with_reducible apply (hs.step ∘ ((Grows.refl _).NewInst)); done)); clear hs; intro hs)
              | (apply stepWith heq; (focus (with_reducible apply (hs.step ∘ ((Grows.refl _).NewStore)); done)); clear hs; intro hs)
              | (apply stepWith heq; (focus (with_reducible apply (hs.step ∘ ((Grows.refl _).NewTerm)); done)); clear hs; intro hs)
              | (apply stepWith heq; (focus (with_reducible apply (hs.step ∘ ((Grows.refl _).NewBlock)); done)); clear hs; intro hs)
              | (apply stepWith heq; (focus (with_reducible apply (hs.step ∘ ((Grows.refl _).generateExpression)); done)); clear hs; intro hs)
              | (apply stepWith heq; (focus (with_reducible apply (hs.step ∘ ((Grows.refl _).appendPrologue)); done)); clear hs; intro hs)
              | (apply stepWith heq; (focus (with_reducible apply (hs.step ∘ ((Grows.refl _).appendEpilogue)); done)); clear hs; intro hs)
              | (apply stepWith heq; (focus (with_reducible apply (hs.step ∘ ((Grows.refl _).generateBoundsCheck)); done)); clear hs; intro hs)
              | (apply stepWith heq; (focus (with_reducible apply (hs.step ∘ (Grows.appendElements (fun e _ => exprOK e) (Grows.refl _))); done)); clear hs; intro hs)
              | (apply stepWith heq; (focus (with_reducible apply (hs.step ∘ (Grows.callArguments (fun e _ => exprOK e) (Grows.refl _))); done)); clear hs; intro hs)
              | (apply stepWith heq; (focus (with_reducible apply (hs.step ∘ (Grows.printfArguments (fun e _ => exprOK e) (Grows.refl _))); done)); clear hs; intro hs)
              | (apply stepWith heq; (focus (with_reducible apply (hs.step ∘ (Grows.arrayElements (fun e _ => exprOK e) (Grows.refl _))); done)); clear hs; intro hs)
              | (apply stepWith heq; (focus (with_reducible apply (hs.step ∘ ((Grows.refl _).bindLiteralParameters)); done)); clear hs; intro hs)
              | (apply stepWith heq; (focus (with_reducible apply (hs.step ∘ (Grows.generateBlockStatement (fun s _ => stmtOK s) (Grows.refl _))); done)); clear hs; intro hs)
              | (apply stepWith heq; (focus (with_reducible apply (hs.step ∘ ((Grows.refl _).implicitReturn)); done)); clear hs; intro hs)
              | (apply stepWith heq; (focus (with_reducible apply (hs.step ∘ ((Grows.refl _).brIfOpen)); done)); clear hs; intro hs)
              | (apply stepWith heq; (focus (with_reducible apply (h.getOrDeclare); done)); clear h; intro h)
              | (apply stepWith heq; (focus (with_reducible apply (h.resolveCallee); done)); clear h; intro h)
              | (apply stepWith heq; (focus (with_reducible apply (h.generateStringLiteral); done)); clear h; intro h)
              | (apply stepWith heq; (focus (with_reducible apply (h.NewInst); done)); clear h; intro h)
              | (apply stepWith heq; (focus (with_reducible apply (h.NewStore); done)); clear h; intro h)
              | (apply stepWith heq; (focus (with_reducible apply (h.NewTerm); done)); clear h; intro h)
              | (apply stepWith heq; (focus (with_reducible apply (h.NewBlock); done)); clear h; intro h)
              | (apply stepWith heq; (focus (with_reducible apply (h.generateExpression); done)); clear h; intro h)
              | (apply stepWith heq; (focus (with_reducible apply (h.appendPrologue); done)); clear h; intro h)
              | (apply stepWith heq; (focus (with_reducible apply (h.appendEpilogue); done)); clear h; intro h)
              | (apply stepWith heq; (focus (with_reducible apply (h.generateBoundsCheck); done)); clear h; intro h)
              | (apply stepWith heq; (focus (with_reducible apply (Grows.appendElements (fun e _ => exprOK e) h); done)); clear h; intro h)
              | (apply stepWith heq; (focus (with_reducible apply (Grows.callArguments (fun e _ => exprOK e) h); done)); clear h; intro h)
              | (apply stepWith heq; (focus (with_reducible apply (Grows.printfArguments (fun e _ => exprOK e) h); done)); clear h; intro h)
              | (apply stepWith heq; (focus (with_reducible apply (Grows.arrayElements (fun e _ => exprOK e) h); done)); clear h; intro h)
              | (apply stepWith heq; (focus (with_reducible apply (h.bindLiteralParameters); done)); clear h; intro h)
              | (apply stepWith heq; (focus (with_reducible apply (Grows.generateBlockStatement (fun s _ => stmtOK s) h); done)); clear h; intro h)
              | (apply stepWith heq; (focus (with_reducible apply (h.implicitReturn); done)); clear h; intro h)
              | (apply stepWith heq; (focus (with_reducible apply (h.brIfOpen); done)); clear h; intro h)
              | fail))
    | (cases e; first | done | exact hs.extend | exact h.report _ | fail)
    | (dsimp only at e)
    | fail)

theorem NilOK.of_other (t : String) :
    NilOK (.Other t) := by
  constructor
  intro x g' e
  have h : Grows x x := Grows.refl x
  rw [generateExpression_other_eq] at e
  try simp only [IRGenerator.NewAlloca, IRGenerator.NewLoad, IRGenerator.NewBin, IRGenerator.NewICmp, IRGenerator.NewFCmp, IRGenerator.NewGetElementPtr, IRGenerator.funcValue, NewCall_func, IRGenerator.NewCall, IRGenerator.NewZExt, IRGenerator.NewSelect, IRGenerator.NewBr, IRGenerator.NewCondBr, IRGenerator.NewRet, IRGenerator.NewUnreachable, IRGenerator.NewFunc, IRGenerator.NewGlobalDef] at e
  repeat' (first
    | (with_reducible first
        | (revert e; apply (hs.step ∘ ((Grows.refl _).NewInst)); done)
        | (revert e; apply (hs.step ∘ ((Grows.refl _).NewStore)); done)
        | (revert e; apply (hs.step ∘ ((Grows.refl _).NewTerm)); done)
        | (revert e; apply (hs.step ∘ ((Grows.refl _).NewBlock)); done)
        | (revert e; apply (hs.step ∘ ((Grows.refl _).generateExpression)); done)
        | (revert e; apply (hs.step ∘ ((Grows.refl _).appendPrologue)); done)
        | (revert e; apply (hs.step ∘ ((Grows.refl _).appendEpilogue)); done)
        | (revert e; apply (hs.step ∘ ((Grows.refl _).generateBoundsCheck)); done)
        | (revert e; apply (hs.step ∘ (Grows.appendElements (fun e _ => exprOK e) (Grows.refl _))); done)
        | (revert e; apply (hs.step ∘ (Grows.callArguments (fun e _ => exprOK e) (Grows.refl _))); done)
        | (revert e; apply (hs.step ∘ (Grows.printfArguments (fun e _ => exprOK e) (Grows.refl _))); done)
        | (revert e; apply (hs.step ∘ (Grows.arrayElements (fun e _ => exprOK e) (Grows.refl _))); done)
        | (revert e; apply (hs.step ∘ ((Grows.refl _).bindLiteralParameters)); done)
        | (revert e; apply (hs.step ∘ (Grows.generateBlockStatement (fun s _ => stmtOK s) (Grows.refl _))); done)
        | (revert e; apply (hs.step ∘ ((Grows.refl _).implicitReturn)); done)
        | (revert e; apply (hs.step ∘ ((Grows.refl _).brIfOpen)); done)
        | (revert e; apply (hs.step ∘ ((Grows.refl _).asResult)); done)
        | (revert e; apply (hs.step ∘ ((Grows.refl _).failWith)); done)
        | (revert e; apply (hs.step ∘ ((Grows.refl _).generateIdentifier)); done)
        | (revert e; apply (hs.step ∘ ((Grows.refl _).prefixOperator)); done)
        | (revert e; apply (hs.step ∘ ((Grows.refl _).generatePostfixExpression)); done)
        | (revert e; apply (hs.step ∘ ((Grows.refl _).generateStringConcatenation)); done)
        | (revert e; apply (hs.step ∘ ((Grows.refl _).infixOperator)); done)
        | (revert e; apply (hs.step ∘ ((Grows.refl _).indexAccess)); done)
        | (revert e; apply (hs.step ∘ ((Grows.refl _).lenOrCap)); done)
        | (revert e; apply (hs.step ∘ ((Grows.refl _).makeSlice)); done)
        | (revert e; apply (hs.step ∘ ((Grows.refl _).printfNoArguments)); done)
        | (revert e; apply (hs.step ∘ ((Grows.refl _).printfCall)); done)
        | (revert e; apply (hs.step ∘ (Grows.generateLenCall (fun e _ => exprOK e) (Grows.refl _))); done)
        | (revert e; apply (hs.step ∘ (Grows.generateCapCall (fun e _ => exprOK e) (Grows.refl _))); done)
        | (revert e; apply (hs.step ∘ (Grows.generateAppendCall (fun e _ => exprOK e) (Grows.refl _))); done)
        | (revert e; apply (hs.step ∘ (Grows.generateMakeCall (fun e _ => exprOK e) (Grows.refl _))); done)
        | (revert e; apply (hs.step ∘ (Grows.generateExitCall (fun e _ => exprOK e) (Grows.refl _))); done)
        | (revert e; apply (h.asResult_nil); done)
        | (revert e; apply (h.failWith_nil); done)
        | fail)
    | (apply stepWith e; (focus (with_reducible apply (@ite_ok _ _ _ _ _ _); done)); intro e2
       clear e
       rcases e2 with ⟨_, e⟩ | ⟨_, e⟩)
    | (simp only [bind_assoc, pure_bind] at e)
    | (rw [bind_ok] at e
       obtain ⟨⟨x1, g1⟩, e1, e⟩ := e
       try dsimp only at e
       first
         | (apply stepWith e1; (focus (with_reducible apply (hs.step ∘ ((Grows.refl _).NewInst)); done)); clear hs; intro hs)
         | (apply stepWith e1; (focus (with_reducible apply (hs.step ∘ ((Grows.refl _).NewStore)); done)); clear hs; intro hs)
         | (apply stepWith e1; (focus (with_reducible apply (hs.step ∘ ((Grows.refl _).NewTerm)); done)); clear hs; intro hs)
         | (apply stepWith e1; (focus (with_reducible apply (hs.step ∘ ((Grows.refl _).NewBlock)); done)); clear hs; intro hs)
         | (apply stepWith e1; (focus (with_reducible apply (hs.step ∘ ((Grows.refl _).generateExpression)); done)); clear hs; intro hs)
         | (apply stepWith e1; (focus (with_reducible apply (hs.step ∘ ((Grows.refl _).appendPrologue)); done)); clear hs; intro hs)
         | (apply stepWith e1; (focus (with_reducible apply (hs.step ∘ ((Grows.refl _).appendEpilogue)); done)); clear hs; intro hs)
         | (apply stepWith e1; (focus (with_reducible apply (hs.step ∘ ((Grows.refl _).generateBoundsCheck)); done)); clear hs; intro hs)
         | (apply stepWith e1; (focus (with_reducible apply (hs.step ∘ (Grows.appendElements (fun e _ => exprOK e) (Grows.refl _))); done)); clear hs; intro hs)
         | (apply stepWith e1; (focus (with_reducible apply (hs.step ∘ (Grows.callArguments (fun e _ => exprOK e) (Grows.refl _))); done)); clear hs; intro hs)
         | (apply stepWith e1; (focus (with_reducible apply (hs.step ∘ (Grows.printfArguments (fun e _ => exprOK e) (Grows.refl _))); done)); clear hs; intro hs)
         | (apply stepWith e1; (focus (with_reducible apply (hs.step ∘ (Grows.arrayElements (fun e _ => exprOK e) (Grows.refl _))); done)); clear hs; intro hs)
         | (apply stepWith e1; (focus (with_reducible apply (hs.step ∘ ((Grows.refl _).bindLiteralParameters)); done)); clear hs; intro hs)
         | (apply stepWith e1; (focus (with_reducible apply (hs.step ∘ (Grows.generateBlockStatement (fun s _ => stmtOK s) (Grows.refl _))); done)); clear hs; intro hs)
         | (apply stepWith e1; (focus (with_reducible apply (hs.step ∘ ((Grows.refl _).implicitReturn)); done)); clear hs; intro hs)
         | (apply stepWith e1; (focus (with_reducible apply (hs.step ∘ ((Grows.refl _).brIfOpen)); done)); clear hs; intro hs)
         | (apply stepWith e1; (focus (with_reducible apply (h.NewInst); done)); clear h; intro h)
         | (apply stepWith e1; (focus (with_reducible apply (h.NewStore); done)); clear h; intro h)
         | (apply stepWith e1; (focus (with_reducible apply (h.NewTerm); done)); clear h; intro h)
         | (apply stepWith e1; (focus (with_reducible apply (h.NewBlock); done)); clear h; intro h)
         | (apply stepWith e1; (focus (with_reducible apply (h.generateExpression); done)); clear h; intro h)
         | (apply stepWith e1; (focus (with_reducible apply (h.appendPrologue); done)); clear h; intro h)
         | (apply stepWith e1; (focus (with_reducible apply (h.appendEpilogue); done)); clear h; intro h)
         | (apply stepWith e1; (focus (with_reducible apply (h.generateBoundsCheck); done)); clear h; intro h)
         | (apply stepWith e1; (focus (with_reducible apply (Grows.appendElements (fun e _ => exprOK e) h); done)); clear h; intro h)
         | (apply stepWith e1; (focus (with_reducible apply (Grows.callArguments (fun e _ => exprOK e) h); done)); clear h; intro h)
         | (apply stepWith e1; (focus (with_reducible apply (Grows.printfArguments (fun e _ => exprOK e) h); done)); clear h; intro h)
         | (apply stepWith e1; (focus (with_reducible apply (Grows.arrayElements (fun e _ => exprOK e) h); done)); clear h; intro h)
         | (apply stepWith e1; (focus (with_reducible apply (h.bindLiteralParameters); done)); clear h; intro h)
         | (apply stepWith e1; (focus (with_reducible apply (Grows.generateBlockStatement (fun s _ => stmtOK s) h); done)); clear h; intro h)
         | (apply stepWith e1; (focus (with_reducible apply (h.implicitReturn); done)); clear h; intro h)
         | (apply stepWith e1; (focus (with_reducible apply (h.brIfOpen); done)); clear h; intro h)
         | (cases e1)
         | fail)
    | (split at e <;>
       try (rename_i heq
            first
              | (apply stepWith heq; (focus (with_reducible apply (hs.step ∘ ((Grows.refl _).getOrDeclare)); done)); clear hs; intro hs)
              | (apply stepWith heq; (focus (with_reducible apply (hs.step ∘ ((Grows.refl _).resolveCallee)); done)); clear hs; intro hs)
              | (apply stepWith heq; (focus (with_reducible apply (hs.step ∘ ((Grows.refl _).generateStringLiteral)); done)); clear hs; intro hs)
              | (apply stepWith heq; (focus (with_reducible apply (hs.step ∘ ((Grows.refl _).NewInst)); done)); clear hs; intro hs)
              | (apply stepWith heq; (focus (with_reducible apply (hs.step ∘ ((Grows.refl _).NewStore)); done)); clear hs; intro hs)
              | (apply stepWith heq; (focus (with_reducible apply (hs.step ∘ ((Grows.refl _).NewTerm)); done)); clear hs; intro hs)
              | (apply stepWith heq; (focus (with_reducible apply (hs.step ∘ ((Grows.refl _).NewBlock)); done)); clear hs; intro hs)
              | (apply stepWith heq; (focus (with_reducible apply (hs.step ∘ ((Grows.refl _).generateExpression)); done)); clear hs; intro hs)
              | (apply stepWith heq; (focus (with_reducible apply (hs.step ∘ ((Grows.refl _).appendPrologue)); done)); clear hs; intro hs)
              | (apply stepWith heq; (focus (with_reducible apply (hs.step ∘ ((Grows.refl _).appendEpilogue)); done)); clear hs; intro hs)
              | (apply stepWith heq; (focus (with_reducible apply (hs.step ∘ ((Grows.refl _).generateBoundsCheck)); done)); clear hs; intro hs)
              | (apply stepWith heq; (focus (with_reducible apply (hs.step ∘ (Grows.appendElements (fun e _ => exprOK e) (Grows.refl _))); done)); clear hs; intro hs)
              | (apply stepWith heq; (focus (with_reducible apply (hs.step ∘ (Grows.callArguments (fun e _ => exprOK e) (Grows.refl _))); done)); clear hs; intro hs)
              | (apply stepWith heq; (focus (with_reducible apply (hs.step ∘ (Grows.printfArguments (fun e _ => exprOK e) (Grows.refl _))); done)); clear hs; intro hs)
              | (apply stepWith heq; (focus (with_reducible apply (hs.step ∘ (Grows.arrayElements (fun e _ => exprOK e) (Grows.refl _))); done)); clear hs; intro hs)
              | (apply stepWith heq; (focus (with_reducible apply (hs.step ∘ ((Grows.refl _).bindLiteralParameters)); done)); clear hs; intro hs)
              | (apply stepWith heq; (focus (with_reducible apply (hs.step ∘ (Grows.generateBlockStatement (fun s _ => stmtOK s) (Grows.refl _))); done)); clear hs; intro hs)
              | (apply stepWith heq; (focus (with_reducible apply (hs.step ∘ ((Grows.refl _).implicitReturn)); done)); clear hs; intro hs)
              | (apply stepWith heq; (focus (with_reducible apply (hs.step ∘ ((Grows.refl _).brIfOpen)); done)); clear hs; intro hs)
              | (apply stepWith heq; (focus (with_reducible apply (h.getOrDeclare); done)); clear h; intro h)
              | (apply stepWith heq; (focus (with_reducible apply (h.resolveCallee); done)); clear h; intro h)
              | (apply stepWith heq; (focus (with_reducible apply (h.generateStringLiteral); done)); clear h; intro h)
              | (apply stepWith heq; (focus (with_reducible apply (h.NewInst); done)); clear h; intro h)
              | (apply stepWith heq; (focus (with_reducible apply (h.NewStore); done)); clear h; intro h)
              | (apply stepWith heq; (focus (with_reducible apply (h.NewTerm); done)); clear h; intro h)
              | (apply stepWith heq; (focus (with_reducible apply (h.NewBlock); done)); clear h; intro h)
              | (apply stepWith heq; (focus (with_reducible apply (h.generateExpression); done)); clear h; intro h)
              | (apply stepWith heq; (focus (with_reducible apply (h.appendPrologue); done)); clear h; intro h)
              | (apply stepWith heq; (focus (with_reducible apply (h.appendEpilogue); done)); clear h; intro h)
              | (apply stepWith heq; (focus (with_reducible apply (h.generateBoundsCheck); done)); clear h; intro h)
              | (apply stepWith heq; (focus (with_reducible apply (Grows.appendElements (fun e _ => exprOK e) h); done)); clear h; intro h)
              | (apply stepWith heq; (focus (with_reducible apply (Grows.callArguments (fun e _ => exprOK e) h); done)); clear h; intro h)
              | (apply stepWith heq; (focus (with_reducible apply (Grows.printfArguments (fun e _ => exprOK e) h); done)); clear h; intro h)
              | (apply stepWith heq; (focus (with_reducible apply (Grows.arrayElements (fun e _ => exprOK e) h); done)); clear h; intro h)
              | (apply stepWith heq; (focus (with_reducible apply (h.bindLiteralParameters); done)); clear h; intro h)
              | (apply stepWith heq; (focus (with_reducible apply (Grows.generateBlockStatement (fun s _ => stmtOK s) h); done)); clear h; intro h)
              | (apply stepWith heq; (focus (with_reducible apply (h.implicitReturn); done)); clear h; intro h)
              | (apply stepWith heq; (focus (with_reducible apply (h.brIfOpen); done)); clear h; intro h)
              | fail))
    | (cases e; first | done | exact hs.extend | exact h.report _ | fail)
    | (dsimp only at e)
    | fail)

/-- An expression lowered outside `irgen.go` reports when it has no value,
by its contract. -/
theorem NilOK.of_external {e : Expression} (l : ExternalExpression)
    (he : ∀ g, generateExpression e g = l.run g) : NilOK e := by
  constructor
  intro x g' e1
  rw [he] at e1
  exact l.reports x g' e1

theorem nilOK_of_size (n : Nat) :
    ∀ e : Expression, sizeOf e ≤ n → passesNil e = false → NilOK e := by
  induction n with
  | zero =>
    intro e hn
    cases e <;> simp at hn
  | succ n ih =>
    intro e hn hp
    cases e with
    | Identifier name => exact NilOK.of_identifier name
    | IntegerLiteral v => exact NilOK.of_integer v
    | FloatLiteral b => exact NilOK.of_float b
    | StringLiteral v => exact NilOK.of_string v
    | BooleanLiteral v => exact NilOK.of_boolean v
    | PrefixExpression op right =>
      simp at hn
      exact NilOK.of_prefix op (ih right (by omega) (by simpa [passesNil] using hp))
    | InfixExpression left op right =>
      simp at hn
      simp only [passesNil, Bool.or_eq_false_iff] at hp
      exact NilOK.of_infix op (ih left (by omega) hp.1) (ih right (by omega) hp.2)
    | PostfixExpression left op => exact NilOK.of_postfix left op
    | CallExpression function arguments =>
      simp at hn
      refine NilOK.of_call function fun a rest hl => ?_
      subst hl
      simp at hn
      exact ih a (by omega) (by simpa [passesNil] using hp)
    | MemberCall object member arguments => exact NilOK.of_memberCall object member arguments
    | FunctionLiteral parameters body => exact NilOK.of_functionLiteral parameters body
    | IfExpression condition consequence alternative => simp [passesNil] at hp
    | ArrayLiteral elements =>
      simp at hn
      refine NilOK.of_arrayLiteral fun a rest hl => ?_
      subst hl
      simp at hn
      exact ih a (by omega) (by simpa [passesNil] using hp)
    | IndexExpression left index =>
      simp at hn
      simp only [passesNil, Bool.or_eq_false_iff] at hp
      exact NilOK.of_indexExpression (ih left (by omega) hp.1) (ih index (by omega) hp.2)
    | ArrayType size elementType => exact NilOK.of_arrayType size elementType
    | NewExpression l => exact NilOK.of_external l fun _ => rfl
    | MemberExpression l => exact NilOK.of_external l fun _ => rfl
    | TemplateExpression l => exact NilOK.of_external l fun _ => rfl
    | TryExpression l => exact NilOK.of_external l fun _ => rfl
    | Other t => exact NilOK.of_other t

/-! ### The cursor around a function, blocks after a return, runtime helpers -/

theorem appendParams_currentFunc (names : List String) (fn : Nat) (g : IRGenerator) :
    (appendParams names fn g).currentFunc = g.currentFunc ∧
      (appendParams names fn g).currentBB = g.currentBB := by
  unfold appendParams
  induction names generalizing g with
  | nil => exact ⟨rfl, rfl⟩
  | cons n names ih => exact ih _

theorem foldlAppendParam_currentFunc (names : List String) (fn : Nat) (g : IRGenerator) :
    (names.foldl (fun g _ => g.appendParam fn ⟨"", .I32⟩) g).currentFunc = g.currentFunc ∧
      (names.foldl (fun g _ => g.appendParam fn ⟨"", .I32⟩) g).currentBB = g.currentBB := by
  induction names generalizing g with
  | nil => exact ⟨rfl, rfl⟩
  | cons n names ih => exact ih _

theorem functionReturnType_currentFunc (returnType : Option Expression) (g : IRGenerator) :
    (functionReturnType returnType g).2.currentFunc = g.currentFunc ∧
      (functionReturnType returnType g).2.currentBB = g.currentBB := by
  unfold functionReturnType
  split
  · split <;> exact ⟨rfl, rfl⟩
  · exact ⟨rfl, rfl⟩
  · exact ⟨rfl, rfl⟩

/-- A block that does not stop early continues with the statements that
follow it. -/
theorem generateBlockStatement_append (pre rest : List Statement) (g g1 : IRGenerator)
    (hpre : generateBlockStatement pre g = .ok ((), g1)) (hopen : g1.terminated = false) :
    generateBlockStatement (pre ++ rest) g = generateBlockStatement rest g1 := by
  induction pre generalizing g with
  | nil =>
    rw [generateBlockStatement_nil_eq] at hpre
    cases hpre
    rfl
  | cons s pre ih =>
    rw [generateBlockStatement_cons_eq, bind_ok] at hpre
    obtain ⟨⟨x1, g2⟩, e1, e⟩ := hpre
    rw [List.cons_append, generateBlockStatement_cons_eq, e1]
    dsimp only [Bind.bind, Except.bind] at e ⊢
    by_cases ht : g2.terminated = true
    · rw [if_pos ht] at e
      cases e
      rw [ht] at hopen
      cases hopen
    · rw [if_neg ht] at e ⊢
      exact ih g2 e

/-- A return statement inside a function with a current block leaves the
current block terminated. -/
theorem generateStatement_return_terminated (returnValue : Option Expression)
    (g g' : IRGenerator) (hf : g.currentFunc.isSome = true) (hb : g.currentBB.isSome = true)
    (e : generateStatement (.ReturnStatement returnValue) g = .ok ((), g')) :
    g'.terminated = true := by
  have key : ∀ (x : IRGenerator) (v : Value), x.NewRet x.currentBB v = .ok ((), g') →
      g'.terminated = true := by
    intro x v e
    unfold IRGenerator.NewRet IRGenerator.NewTerm at e
    split at e
    · cases e
    · next b hb =>
      cases e
      simp [IRGenerator.terminated, IRGenerator.setTerm, hb, update, Block.close]
  rw [generateStatement_return_eq] at e
  have hf2 : ¬ g.currentFunc.isNone = true := by
    cases h : g.currentFunc <;> simp_all
  have hb2 : ¬ g.currentBB.isNone = true := by
    cases h : g.currentBB <;> simp_all
  rw [if_neg hf2, if_neg hb2] at e
  cases returnValue with
  | none => exact key _ _ e
  | some ex =>
    dsimp only at e
    rw [bind_ok] at e
    obtain ⟨⟨x1, g1⟩, -, e⟩ := e
    cases x1 with
    | none => exact key _ _ e
    | some v => exact key _ _ e

theorem setVariadic_funcs_name (g : IRGenerator) (f x : Nat) :
    ((g.setVariadic f).funcs x).name = (g.funcs x).name := by
  unfold IRGenerator.setVariadic
  split
  · by_cases hx : x = f <;> simp [update, hx]
  · rfl

/-- What `getOrDeclare` does to a well-formed generator: the helper it returns
carries the name and is listed in the module, the module lists at most one
more function, the number of functions of that name becomes one if it was
zero and stays otherwise, and nothing but functions and bindings changes. -/
theorem getOrDeclare_spec (name : String) (retType : Ty) (params : List Param) (variadic : Bool)
    (g : IRGenerator) (hwf : g.wellFormed) :
    ((getOrDeclare name retType params variadic g).2.funcs
        (getOrDeclare name retType params variadic g).1).name = name ∧
      (getOrDeclare name retType params variadic g).2.wellFormed ∧
      (∀ n, functionsNamed (getOrDeclare name retType params variadic g).2 n
        = if n = name then max 1 (functionsNamed g n) else functionsNamed g n) ∧
      (∀ f ∈ g.module.funcs, (getOrDeclare name retType params variadic g).2.funcs f = g.funcs f) ∧
      (getOrDeclare name retType params variadic g).1 ∈
        (getOrDeclare name retType params variadic g).2.module.funcs ∧
      g.module.funcs <+: (getOrDeclare name retType params variadic g).2.module.funcs ∧
      (getOrDeclare name retType params variadic g).2.blocks = g.blocks ∧
      (getOrDeclare name retType params variadic g).2.currentBB = g.currentBB ∧
      (getOrDeclare name retType params variadic g).2.currentFunc = g.currentFunc ∧
      (getOrDeclare name retType params variadic g).2.nextId = g.nextId ∧
      (getOrDeclare name retType params variadic g).2.nblocks = g.nblocks ∧
      (getOrDeclare name retType params variadic g).2.errors = g.errors := by
  unfold getOrDeclare
  cases hfind : g.getFunction name with
  | some f =>
    dsimp only
    unfold IRGenerator.getFunction at hfind
    have hmem := List.mem_of_find?_eq_some hfind
    have hname := List.find?_some hfind
    simp only [decide_eq_true_eq] at hname
    refine ⟨hname, hwf, ?_, fun _ _ => rfl, hmem, List.prefix_refl _, rfl, rfl, rfl, rfl, rfl, rfl⟩
    intro n
    by_cases hn : n = name
    · subst hn
      rw [if_pos rfl]
      have : 0 < functionsNamed g n := by
        unfold functionsNamed
        rw [List.countP_pos_iff]
        exact ⟨f, hmem, by simpa using hname⟩
      omega
    · rw [if_neg hn]
  | none =>
    dsimp only [IRGenerator.NewFunc]
    unfold IRGenerator.getFunction at hfind
    rw [List.find?_eq_none] at hfind
    have hold : ∀ f ∈ g.module.funcs,
        ((if variadic = true then (g.addFunc name retType params).setVariadic g.nfuncs
          else g.addFunc name retType params).funcs f).name = (g.funcs f).name := by
      intro f hf
      have hlt : f ≠ g.nfuncs := Nat.ne_of_lt (hwf f hf)
      split
      · rw [setVariadic_funcs_name]
        simp [update, hlt]
      · simp [update, hlt]
    have hnew : ((if variadic = true then (g.addFunc name retType params).setVariadic g.nfuncs
          else g.addFunc name retType params).funcs g.nfuncs).name = name := by
      split
      · rw [setVariadic_funcs_name]
        simp [update]
      · simp [update]
    have hmod : (if variadic = true then (g.addFunc name retType params).setVariadic g.nfuncs
          else g.addFunc name retType params).module.funcs = g.module.funcs ++ [g.nfuncs] := by
      split
      · unfold IRGenerator.setVariadic
        split <;> simp
      · simp
    have hnf : (if variadic = true then (g.addFunc name retType params).setVariadic g.nfuncs
          else g.addFunc name retType params).nfuncs = g.nfuncs + 1 := by
      split
      · unfold IRGenerator.setVariadic
        split <;> simp
      · simp
    have hrest : ∀ (P : IRGenerator → Prop), P (g.addFunc name retType params) →
        (∀ x f fn, P x → P (x.setFunc f fn)) →
        P (if variadic = true then (g.addFunc name retType params).setVariadic g.nfuncs
          else g.addFunc name retType params) := by
      intro P h1 h2
      split
      · unfold IRGenerator.setVariadic
        split
        · exact h2 _ _ _ h1
        · exact h1
      · exact h1
    refine ⟨hnew, ?_, ?_, ?_, ?_, ?_, ?_, ?_, ?_, ?_, ?_, ?_⟩
    · intro f hf
      simp only [IRGenerator.bindSymbol_module, IRGenerator.bindSymbol_nfuncs, hmod, hnf,
        List.mem_append, List.mem_singleton] at hf ⊢
      rcases hf with hf | hf
      · exact Nat.lt_succ_of_lt (hwf f hf)
      · rw [hf]
        exact Nat.lt_succ_self _
    · intro n
      unfold functionsNamed
      simp only [IRGenerator.bindSymbol_module, IRGenerator.bindSymbol_funcs, hmod,
        List.countP_append]
      have h1 : List.countP (fun f => decide (((if variadic = true then
            (g.addFunc name retType params).setVariadic g.nfuncs
          else g.addFunc name retType params).funcs f).name = n)) g.module.funcs
          = List.countP (fun f => decide ((g.funcs f).name = n)) g.module.funcs := by
        apply List.countP_congr
        intro f hf
        rw [hold f hf]
      rw [h1]
      by_cases hn : n = name
      · subst hn
        rw [if_pos rfl]
        have h0 : List.countP (fun f => decide ((g.funcs f).name = n)) g.module.funcs = 0 := by
          rw [List.countP_eq_zero]
          intro f hf
          simpa using hfind f hf
        rw [h0]
        simp [List.countP_cons, hnew]
      · rw [if_neg hn]
        have : ¬ name = n := fun h => hn h.symm
        simp [List.countP_cons, hnew, this]
    · intro f hf
      have hlt : f ≠ g.nfuncs := Nat.ne_of_lt (hwf f hf)
      simp only [IRGenerator.bindSymbol_funcs]
      split
      · unfold IRGenerator.setVariadic
        split <;> simp [update, hlt]
      · simp [update, hlt]
    · simp only [IRGenerator.bindSymbol_module, hmod]
      simp
    · simp only [IRGenerator.bindSymbol_module, hmod]
      exact List.prefix_append _ _
    · exact hrest (fun x => (x.bindSymbol name
        ((if variadic = true then (g.addFunc name retType params).setVariadic g.nfuncs
          else g.addFunc name retType params).funcValue g.nfuncs)).blocks = g.blocks) rfl
        (fun _ _ _ h => h)
    · exact hrest (fun x => (x.bindSymbol name
        ((if variadic = true then (g.addFunc name retType params).setVariadic g.nfuncs
          else g.addFunc name retType params).funcValue g.nfuncs)).currentBB = g.currentBB) rfl
        (fun _ _ _ h => h)
    · exact hrest (fun x => (x.bindSymbol name
        ((if variadic = true then (g.addFunc name retType params).setVariadic g.nfuncs
          else g.addFunc name retType params).funcValue g.nfuncs)).currentFunc = g.currentFunc) rfl
        (fun _ _ _ h => h)
    · exact hrest (fun x => (x.bindSymbol name
        ((if variadic = true then (g.addFunc name retType params).setVariadic g.nfuncs
          else g.addFunc name retType params).funcValue g.nfuncs)).nextId = g.nextId) rfl
        (fun _ _ _ h => h)
    · exact hrest (fun x => (x.bindSymbol name
        ((if variadic = true then (g.addFunc name retType params).setVariadic g.nfuncs
          else g.addFunc name retType params).funcValue g.nfuncs)).nblocks = g.nblocks) rfl
        (fun _ _ _ h => h)
    · exact hrest (fun x => (x.bindSymbol name
        ((if variadic = true then (g.addFunc name retType params).setVariadic g.nfuncs
          else g.addFunc name retType params).funcValue g.nfuncs)).errors = g.errors) rfl
        (fun _ _ _ h => h)

/-! ### The frame of a lowering -/

instance OwnedOpt.ofOwned (a : IRGenerator) (b : Nat) [o : Owned a b] : OwnedOpt a (some b) :=
  ⟨fun _ hb => by cases hb; exact o.own⟩

instance OwnedOpt.ofNone (a : IRGenerator) : OwnedOpt a none := ⟨fun _ hb => by cases hb⟩

instance Mem.head (b : Nat) (B : List Nat) : Mem b (b :: B) := ⟨List.mem_cons_self _ _⟩

instance Mem.tail (b c : Nat) (B : List Nat) [m : Mem b B] : Mem b (c :: B) :=
  ⟨List.mem_cons_of_mem _ m.mem⟩

instance Mem.appendRight (b : Nat) (L B : List Nat) [m : Mem b B] : Mem b (L ++ B) :=
  ⟨List.mem_append_right _ m.mem⟩

instance Sub.same (B : List Nat) : Sub B B := ⟨fun _ h => h⟩

instance Sub.skip (B0 B : List Nat) (c : Nat) [s : Sub B0 B] : Sub B0 (c :: B) :=
  ⟨fun b h => List.mem_cons_of_mem _ (s.sub b h)⟩

instance Sub.skipAppend (B0 B L : List Nat) [s : Sub B0 B] : Sub B0 (L ++ B) :=
  ⟨fun b h => List.mem_append_right _ (s.sub b h)⟩

theorem FuncsKept.funcs_refl (g : IRGenerator) : FuncsKept g g :=
  ⟨Nat.le_refl _, fun _ _ => rfl, fun _ _ _ => rfl, fun _ h => h, fun _ h => h,
    fun _ _ h => Or.inl h⟩

theorem FuncsKept.funcs_trans {a b c : IRGenerator} (h1 : FuncsKept a b)
    (hf : b.currentFunc = a.currentFunc) (h2 : FuncsKept b c) : FuncsKept a c :=
  ⟨Nat.le_trans h1.nfuncs h2.nfuncs,
    fun f hf1 => by rw [h2.names f (Nat.lt_of_lt_of_le hf1 h1.nfuncs), h1.names f hf1],
    fun f hf1 hne => by
      rw [h2.blocks f (Nat.lt_of_lt_of_le hf1 h1.nfuncs) (by rw [hf]; exact hne),
        h1.blocks f hf1 hne],
    fun f hm => h2.listed f (h1.listed f hm),
    fun p hp => h2.logged p (h1.logged p hp),
    fun hv p hp => by
      have hvb : ∀ d, b.currentFunc = some d → d < b.nfuncs := fun d hd =>
        Nat.lt_of_lt_of_le (hv d (by rw [← hf]; exact hd)) h1.nfuncs
      rcases h2.declared hvb p hp with hb | ⟨l1, l2, l3, l4, l5⟩
      · rcases h1.declared hv p hb with ha | ⟨k1, k2, k3, k4, k5⟩
        · exact Or.inl ha
        · have hne : b.currentFunc ≠ some p.2 := by
            intro hh
            have := hv p.2 (by rw [← hf]; exact hh)
            omega
          exact Or.inr ⟨k1, Nat.lt_of_lt_of_le k2 h2.nfuncs, by rw [h2.names _ k2, k3],
            by rw [h2.blocks _ k2 hne, k4], h2.listed _ k5⟩
      · exact Or.inr ⟨Nat.le_trans h1.nfuncs l1, l2, l3, l4, l5⟩⟩

/-- An assignment that touches no function. -/
theorem FuncsKept.funcs_same {a g x : IRGenerator} (h : FuncsKept a g)
    (e1 : x.nfuncs = g.nfuncs) (e2 : x.funcs = g.funcs)
    (e3 : x.module.funcs = g.module.funcs) (e4 : x.lazyDeclared = g.lazyDeclared) :
    FuncsKept a x :=
  ⟨by rw [e1]; exact h.nfuncs, fun f hf => by rw [e2]; exact h.names f hf,
    fun f hf hne => by rw [e2]; exact h.blocks f hf hne,
    fun f hm => by rw [e3]; exact h.listed f hm,
    fun p hp => by rw [e4]; exact h.logged p hp,
    fun hv p hp => by
      rw [e4] at hp
      rw [e1, e2, e3]
      exact h.declared hv p hp⟩

/-- A function object replaced by one with the same name and blocks. -/
theorem FuncsKept.funcs_setFunc {a g : IRGenerator} (h : FuncsKept a g) (f : Nat) (fn : Func)
    (hn : fn.name = (g.funcs f).name) (hb : fn.blocks = (g.funcs f).blocks) :
    FuncsKept a (g.setFunc f fn) :=
  ⟨h.nfuncs,
    fun c hc => by
      by_cases hcf : c = f
      · subst hcf
        simp only [IRGenerator.setFunc_funcs, update, if_true]
        rw [hn]
        exact h.names c hc
      · simp only [IRGenerator.setFunc_funcs, update, if_neg hcf]
        exact h.names c hc,
    fun c hc hne => by
      by_cases hcf : c = f
      · subst hcf
        simp only [IRGenerator.setFunc_funcs, update, if_true]
        rw [hb]
        exact h.blocks c hc hne
      · simp only [IRGenerator.setFunc_funcs, update, if_neg hcf]
        exact h.blocks c hc hne,
    h.listed, h.logged,
    fun hv p hp => by
      rcases h.declared hv p hp with ha | ⟨k1, k2, k3, k4, k5⟩
      · exact Or.inl ha
      · refine Or.inr ⟨k1, k2, ?_, ?_, k5⟩
        · by_cases hcf : p.2 = f
          · simp only [IRGenerator.setFunc_funcs, update, hcf, if_true]
            rw [hn, ← hcf]
            exact k3
          · simp only [IRGenerator.setFunc_funcs, update, if_neg hcf]
            exact k3
        · by_cases hcf : p.2 = f
          · simp only [IRGenerator.setFunc_funcs, update, hcf, if_true]
            rw [hb, ← hcf]
            exact k4
          · simp only [IRGenerator.setFunc_funcs, update, if_neg hcf]
            exact k4⟩

/-- A new function. -/
theorem FuncsKept.funcs_addFunc {a g : IRGenerator} (h : FuncsKept a g) (name : String)
    (retType : Ty) (params : List Param) : FuncsKept a (g.addFunc name retType params) :=
  ⟨Nat.le_trans h.nfuncs (Nat.le_succ _),
    fun c hc => by
      have hcf : c ≠ g.nfuncs := by
        have := h.nfuncs
        omega
      simp only [IRGenerator.addFunc_funcs, update, if_neg hcf]
      exact h.names c hc,
    fun c hc hne => by
      have hcf : c ≠ g.nfuncs := by
        have := h.nfuncs
        omega
      simp only [IRGenerator.addFunc_funcs, update, if_neg hcf]
      exact h.blocks c hc hne,
    fun c hm => by
      simp only [IRGenerator.addFunc_module, Module.addFunc_funcs]
      exact List.mem_append_left _ (h.listed c hm),
    h.logged,
    fun hv p hp => by
      rcases h.declared hv p hp with ha | ⟨k1, k2, k3, k4, k5⟩
      · exact Or.inl ha
      · have hcf : p.2 ≠ g.nfuncs := Nat.ne_of_lt k2
        refine Or.inr ⟨k1, Nat.lt_succ_of_lt k2, ?_, ?_, ?_⟩
        · simp only [IRGenerator.addFunc_funcs, update, if_neg hcf]
          exact k3
        · simp only [IRGenerator.addFunc_funcs, update, if_neg hcf]
          exact k4
        · simp only [IRGenerator.addFunc_module, Module.addFunc_funcs]
          exact List.mem_append_left _ k5⟩

/-- A new block in the current function. -/
theorem FuncsKept.funcs_addBlock {a g : IRGenerator} (h : FuncsKept a g) (f : Nat)
    (name : String) (ho : a.currentFunc = some f) :
    FuncsKept a (g.addBlock f name) :=
  ⟨h.nfuncs,
    fun c hc => by
      by_cases hcf : c = f
      · subst hcf
        simp only [IRGenerator.addBlock, update, if_true, Func.addBlock_name]
        exact h.names c hc
      · simp only [IRGenerator.addBlock, update, if_neg hcf]
        exact h.names c hc,
    fun c hc hne => by
      have hcf : c ≠ f := by
        rintro rfl
        exact hne ho
      simp only [IRGenerator.addBlock, update, if_neg hcf]
      exact h.blocks c hc hne,
    h.listed, h.logged,
    fun hv p hp => by
      rcases h.declared hv p hp with ha | ⟨k1, k2, k3, k4, k5⟩
      · exact Or.inl ha
      · have hcf : p.2 ≠ f := by
          have := hv f ho
          omega
        refine Or.inr ⟨k1, k2, ?_, ?_, k5⟩
        · simp only [IRGenerator.addBlock, update, if_neg hcf]
          exact k3
        · simp only [IRGenerator.addBlock, update, if_neg hcf]
          exact k4⟩

/-- A function made since `a`, carrying the name and without a block, noted
in the log of lazily declared functions. -/
theorem FuncsKept.funcs_noteLazy {a g : IRGenerator} (h : FuncsKept a g) (name : String)
    (fn : Nat) (h1 : a.nfuncs ≤ fn) (h2 : fn < g.nfuncs) (h3 : (g.funcs fn).name = name)
    (h4 : (g.funcs fn).blocks = []) (h5 : fn ∈ g.module.funcs) :
    FuncsKept a (g.noteLazy name fn) :=
  ⟨h.nfuncs, h.names, h.blocks, h.listed,
    fun p hp => List.mem_append_left _ (h.logged p hp),
    fun hv p hp => by
      simp only [IRGenerator.noteLazy_lazyDeclared, List.mem_append, List.mem_singleton] at hp
      rcases hp with hp | hp
      · exact h.declared hv p hp
      · subst hp
        exact Or.inr ⟨h1, h2, h3, h4, h5⟩⟩

theorem Keeps.keeps_refl (g : IRGenerator) : Keeps g g [] :=
  ⟨Nat.le_refl _, rfl, fun _ h => Or.inl h, fun h => h, fun h => h, fun _ _ _ => rfl,
    fun _ _ => rfl, fun h => h, fun _ hb => (by cases hb), FuncsKept.funcs_refl g⟩

theorem Keeps.keeps_trans {a b c : IRGenerator} {B1 B2 : List Nat} (h1 : Keeps a b B1)
    (h2 : Keeps b c B2) : Keeps a c (B2 ++ B1) := by
  refine ⟨Nat.le_trans h1.nblocks h2.nblocks, h2.currentFunc.trans h1.currentFunc, ?_, ?_,
    fun h => h2.cursorValid (h1.cursorValid h), ?_, ?_, fun h => h2.symbols (h1.symbols h), ?_,
    h1.functions.funcs_trans h1.currentFunc h2.functions⟩
  · intro x hx
    rcases h2.cursor x hx with h | ⟨h, hf⟩
    · exact h1.cursor x h
    · exact Or.inr ⟨Nat.le_trans h1.nblocks h, by rw [← h1.currentFunc]; exact hf⟩
  · intro h
    exact h1.cursorNone (h2.cursorNone h)
  · intro x hx hne
    have hb : b.currentBB ≠ some x := by
      intro hbx
      rcases h1.cursor x hbx with h | ⟨h, _⟩
      · exact hne h
      · omega
    rw [h2.blocks x (Nat.lt_of_lt_of_le hx h1.nblocks) hb, h1.blocks x hx hne]
  · intro x hx
    rw [h2.names x (Nat.lt_of_lt_of_le hx h1.nblocks), h1.names x hx]
  · intro x hx
    rcases List.mem_append.mp hx with hx | hx
    · exact h2.made x hx
    · exact Nat.lt_of_lt_of_le (h1.made x hx) h2.nblocks

/-- Forget blocks named in the list. -/
theorem Keeps.keeps_less {a g : IRGenerator} {B0 B : List Nat} [s : Sub B0 B] (h : Keeps a g B) :
    Keeps a g B0 :=
  ⟨h.nblocks, h.currentFunc, h.cursor, h.cursorNone, h.cursorValid, h.blocks, h.names,
    h.symbols, fun b hb => h.made b (s.sub b hb), h.functions⟩

theorem Keeps.keeps_sub {a g : IRGenerator} {B0 B : List Nat} (h : Keeps a g B)
    (hs : ∀ b ∈ B0, b ∈ B) : Keeps a g B0 :=
  ⟨h.nblocks, h.currentFunc, h.cursor, h.cursorNone, h.cursorValid, h.blocks, h.names,
    h.symbols, fun b hb => h.made b (hs b hb), h.functions⟩

/-- An assignment that touches neither blocks, cursor nor bindings. -/
theorem Keeps.keeps_same {a g x : IRGenerator} {B : List Nat} (h : Keeps a g B)
    (e1 : x.nblocks = g.nblocks)
    (e2 : x.currentFunc = g.currentFunc) (e3 : x.currentBB = g.currentBB)
    (e4 : x.blocks = g.blocks) (e5 : x.symbolTable = g.symbolTable)
    (e6 : x.nfuncs = g.nfuncs) (e7 : x.funcs = g.funcs)
    (e8 : x.module.funcs = g.module.funcs) (e9 : x.lazyDeclared = g.lazyDeclared) :
    Keeps a x B :=
  ⟨by rw [e1]; exact h.nblocks, by rw [e2]; exact h.currentFunc,
    fun c hc => h.cursor c (by rw [← e3]; exact hc),
    fun hc => h.cursorNone (by rw [← e3]; exact hc),
    fun hv c hc => by rw [e1]; exact h.cursorValid hv c (by rw [← e3]; exact hc),
    fun c hc hne => by rw [e4]; exact h.blocks c hc hne,
    fun c hc => by rw [e4]; exact h.names c hc,
    fun hs => by rw [e5]; exact h.symbols hs,
    fun b hb => by rw [e1]; exact h.made b hb, h.functions.funcs_same e6 e7 e8 e9⟩

theorem Keeps.keeps_ReportError {a g : IRGenerator} {B : List Nat} (h : Keeps a g B) (msg : String) :
    Keeps a (g.ReportError msg) B := h.keeps_same rfl rfl rfl rfl rfl rfl rfl rfl rfl

theorem Keeps.keeps_nextLabel {a g : IRGenerator} {B : List Nat} (h : Keeps a g B) : Keeps a g.nextLabel B :=
  h.keeps_same rfl rfl rfl rfl rfl rfl rfl rfl rfl

theorem Keeps.keeps_setModuleName {a g : IRGenerator} {B : List Nat} (h : Keeps a g B) (name : String) :
    Keeps a (g.setModuleName name) B := h.keeps_same rfl rfl rfl rfl rfl rfl rfl rfl rfl

theorem Keeps.keeps_fresh {a g : IRGenerator} {B : List Nat} (h : Keeps a g B) : Keeps a g.fresh B :=
  h.keeps_same rfl rfl rfl rfl rfl rfl rfl rfl rfl

theorem Keeps.keeps_addFunc {a g : IRGenerator} {B : List Nat} (h : Keeps a g B) (name : String) (retType : Ty)
    (params : List Param) : Keeps a (g.addFunc name retType params) B :=
  ⟨h.nblocks, h.currentFunc, h.cursor, h.cursorNone, h.cursorValid, h.blocks, h.names,
    h.symbols, h.made, h.functions.funcs_addFunc name retType params⟩

theorem Keeps.keeps_noteLazy {a g : IRGenerator} {B : List Nat} (h : Keeps a g B)
    (name : String) (fn : Nat) (h1 : a.nfuncs ≤ fn) (h2 : fn < g.nfuncs)
    (h3 : (g.funcs fn).name = name) (h4 : (g.funcs fn).blocks = [])
    (h5 : fn ∈ g.module.funcs) : Keeps a (g.noteLazy name fn) B :=
  ⟨h.nblocks, h.currentFunc, h.cursor, h.cursorNone, h.cursorValid, h.blocks, h.names,
    h.symbols, h.made, h.functions.funcs_noteLazy name fn h1 h2 h3 h4 h5⟩

theorem appendParams_lazyDeclared (names : List String) (fn : Nat) (g : IRGenerator) :
    (appendParams names fn g).lazyDeclared = g.lazyDeclared := by
  unfold Irgen.appendParams
  induction names generalizing g with
  | nil => rfl
  | cons n names ih => exact (ih _).trans rfl

theorem appendParams_nfuncs (names : List String) (fn : Nat) (g : IRGenerator) :
    (appendParams names fn g).nfuncs = g.nfuncs := by
  unfold Irgen.appendParams
  induction names generalizing g with
  | nil => rfl
  | cons n names ih => exact (ih _).trans rfl

theorem foldlAppendParam_lazyDeclared (names : List String) (fn : Nat) (g : IRGenerator) :
    (names.foldl (fun g _ => g.appendParam fn ⟨"", .I32⟩) g).lazyDeclared
      = g.lazyDeclared := by
  induction names generalizing g with
  | nil => rfl
  | cons n names ih => exact (ih _).trans rfl

theorem foldlAppendParam_nfuncs (names : List String) (fn : Nat) (g : IRGenerator) :
    (names.foldl (fun g _ => g.appendParam fn ⟨"", .I32⟩) g).nfuncs = g.nfuncs := by
  induction names generalizing g with
  | nil => rfl
  | cons n names ih => exact (ih _).trans rfl

theorem Keeps.keeps_setFunc {a g : IRGenerator} {B : List Nat} (h : Keeps a g B) (f : Nat) (fn : Func)
    (hn : fn.name = (g.funcs f).name) (hb : fn.blocks = (g.funcs f).blocks) :
    Keeps a (g.setFunc f fn) B :=
  ⟨h.nblocks, h.currentFunc, h.cursor, h.cursorNone, h.cursorValid, h.blocks, h.names,
    h.symbols, h.made, h.functions.funcs_setFunc f fn hn hb⟩

theorem Keeps.keeps_setVariadic {a g : IRGenerator} {B : List Nat} (h : Keeps a g B) (f : Nat) :
    Keeps a (g.setVariadic f) B := by
  unfold IRGenerator.setVariadic
  split
  · exact h.keeps_setFunc _ _ rfl rfl
  · exact h

theorem Keeps.keeps_appendParam {a g : IRGenerator} {B : List Nat} (h : Keeps a g B) (f : Nat) (p : Param) :
    Keeps a (g.appendParam f p) B := h.keeps_setFunc _ _ rfl rfl

theorem Keeps.keeps_setParamName {a g : IRGenerator} {B : List Nat} (h : Keeps a g B) (f i : Nat)
    (name : String) : Keeps a (g.setParamName f i name) B := h.keeps_setFunc _ _ rfl rfl

theorem Keeps.keeps_addGlobal {a g : IRGenerator} {B : List Nat} (h : Keeps a g B) (name : String)
    (init : Value) : Keeps a (g.addGlobal name init) B := h.keeps_same rfl rfl rfl rfl rfl rfl rfl rfl rfl

theorem Keeps.keeps_setGlobalInit {a g : IRGenerator} {B : List Nat} (h : Keeps a g B) (id : Nat)
    (init : Value) : Keeps a (g.setGlobalInit id init) B := h.keeps_same rfl rfl rfl rfl rfl rfl rfl rfl rfl

theorem Keeps.keeps_appendParams {a g : IRGenerator} {B : List Nat} (h : Keeps a g B) (names : List String)
    (fn : Nat) : Keeps a (appendParams names fn g) B := by
  unfold Irgen.appendParams
  induction names generalizing g with
  | nil => exact h
  | cons n names ih => exact ih (h.keeps_appendParam _ _)

theorem Keeps.keeps_foldlAppendParam {a g : IRGenerator} {B : List Nat} (h : Keeps a g B) (names : List String)
    (fn : Nat) : Keeps a (names.foldl (fun g _ => g.appendParam fn ⟨"", .I32⟩) g) B := by
  induction names generalizing g with
  | nil => exact h
  | cons n names ih => exact ih (h.keeps_appendParam _ _)

theorem Keeps.keeps_bindSymbol {a g : IRGenerator} {B : List Nat} (h : Keeps a g B)
    (name : String) (v : Value) (hv : v.Type.IsPointer = true) :
    Keeps a (g.bindSymbol name v) B :=
  ⟨h.nblocks, h.currentFunc, h.cursor, h.cursorNone, h.cursorValid, h.blocks, h.names,
    fun hs p hp => by
      simp only [IRGenerator.bindSymbol_symbolTable, assign, List.mem_cons] at hp
      rcases hp with hp | hp
      · rw [hp]
        exact hv
      · exact h.symbols hs p hp,
    h.made, h.functions.funcs_same rfl rfl rfl rfl⟩

theorem Keeps.keeps_setCurrentBB {a g : IRGenerator} {B : List Nat} (h : Keeps a g B) (b : Nat)
    (ho : a.currentBB = some b ∨ a.nblocks ≤ b) (hf : a.currentFunc.isSome = true)
    (hm : b ∈ B) : Keeps a (g.setCurrentBB (some b)) B :=
  ⟨h.nblocks, h.currentFunc, fun c hc => by
      simp only [IRGenerator.setCurrentBB_currentBB, Option.some.injEq] at hc
      subst hc
      rcases ho with ho | ho
      · exact Or.inl ho
      · exact Or.inr ⟨ho, hf⟩,
    fun hc => by simp at hc,
    fun _ c hc => by
      simp only [IRGenerator.setCurrentBB_currentBB, Option.some.injEq] at hc
      subst hc
      exact h.made _ hm,
    h.blocks, h.names, h.symbols, h.made, h.functions.funcs_same rfl rfl rfl rfl⟩

theorem Keeps.keeps_emit {a g : IRGenerator} {B : List Nat} (h : Keeps a g B) (b : Nat)
    (i : Inst) (ho : a.currentBB = some b ∨ a.nblocks ≤ b) : Keeps a (g.emit b i) B :=
  ⟨h.nblocks, h.currentFunc, h.cursor, h.cursorNone, h.cursorValid, fun c hc hne => by
      have hcb : c ≠ b := by
        rintro rfl
        rcases ho with ho | ho
        · exact hne ho
        · omega
      simp only [IRGenerator.emit_blocks, update, if_neg hcb]
      exact h.blocks c hc hne,
    fun c hc => by
      by_cases hcb : c = b
      · subst hcb
        simp only [IRGenerator.emit_blocks, update, if_true, Block.push_name]
        exact h.names c hc
      · simp only [IRGenerator.emit_blocks, update, if_neg hcb]
        exact h.names c hc,
    h.symbols, h.made, h.functions.funcs_same rfl rfl rfl rfl⟩

theorem Keeps.keeps_setTerm {a g : IRGenerator} {B : List Nat} (h : Keeps a g B) (b : Nat)
    (t : Terminator) (ho : a.currentBB = some b ∨ a.nblocks ≤ b) : Keeps a (g.setTerm b t) B :=
  ⟨h.nblocks, h.currentFunc, h.cursor, h.cursorNone, h.cursorValid, fun c hc hne => by
      have hcb : c ≠ b := by
        rintro rfl
        rcases ho with ho | ho
        · exact hne ho
        · omega
      simp only [IRGenerator.setTerm_blocks, update, if_neg hcb]
      exact h.blocks c hc hne,
    fun c hc => by
      by_cases hcb : c = b
      · subst hcb
        simp only [IRGenerator.setTerm_blocks, update, if_true, Block.close_name]
        exact h.names c hc
      · simp only [IRGenerator.setTerm_blocks, update, if_neg hcb]
        exact h.names c hc,
    h.symbols, h.made, h.functions.funcs_same rfl rfl rfl rfl⟩

theorem Keeps.keeps_addBlock {a g : IRGenerator} {B : List Nat} (h : Keeps a g B) (f : Nat)
    (name : String) (ho : a.currentFunc = some f) :
    Keeps a (g.addBlock f name) (g.nblocks :: B) :=
  ⟨Nat.le_trans h.nblocks (Nat.le_succ _), h.currentFunc, h.cursor, h.cursorNone,
    fun hv c hc => Nat.lt_succ_of_lt (h.cursorValid hv c hc),
    fun c hc hne => by
      have hcb : c ≠ g.nblocks := by
        have := h.nblocks
        omega
      simp only [IRGenerator.addBlock_blocks, update, if_neg hcb]
      exact h.blocks c hc hne,
    fun c hc => by
      have hcb : c ≠ g.nblocks := by
        have := h.nblocks
        omega
      simp only [IRGenerator.addBlock_blocks, update, if_neg hcb]
      exact h.names c hc,
    h.symbols,
    fun b hb => by
      rcases List.mem_cons.mp hb with hb | hb
      · rw [hb]
        exact Nat.lt_succ_self _
      · exact Nat.lt_succ_of_lt (h.made b hb),
    h.functions.funcs_addBlock f name ho⟩

/-- The current block of a generator kept from `a` may be written to. -/
theorem Keeps.keeps_cursorOwned {a g : IRGenerator} {B : List Nat} (h : Keeps a g B) {b : Nat}
    (hb : g.currentBB = some b) : a.currentBB = some b ∨ a.nblocks ≤ b := by
  rcases h.cursor b hb with h1 | ⟨h1, _⟩
  · exact Or.inl h1
  · exact Or.inr h1

instance KExt.kextRefl (a g : IRGenerator) (B : List Nat) : KExt a g g B := ⟨fun h => h⟩

instance KExt.kextReportError (a g x : IRGenerator) (B : List Nat) (msg : String)
    [i : KExt a g x B] : KExt a g (x.ReportError msg) B :=
  ⟨fun h => (i.keeps h).keeps_ReportError msg⟩

instance KExt.kextSetCurrentBB (a g x : IRGenerator) (B : List Nat) (b : Nat) [i : KExt a g x B]
    [o : Owned a b] [f : InFunc a] [m : Mem b B] : KExt a g (x.setCurrentBB (some b)) B :=
  ⟨fun h => (i.keeps h).keeps_setCurrentBB b o.own f.inFunc m.mem⟩

instance KExt.kextBindSymbol (a g x : IRGenerator) (B : List Nat) (name : String) (v : Value)
    [i : KExt a g x B] [p : PtrVal v] : KExt a g (x.bindSymbol name v) B :=
  ⟨fun h => (i.keeps h).keeps_bindSymbol name v p.ptr⟩

instance KExt.kextNextLabel (a g x : IRGenerator) (B : List Nat) [i : KExt a g x B] :
    KExt a g x.nextLabel B := ⟨fun h => (i.keeps h).keeps_nextLabel⟩

instance KExt.kextSetModuleName (a g x : IRGenerator) (B : List Nat) (name : String)
    [i : KExt a g x B] : KExt a g (x.setModuleName name) B :=
  ⟨fun h => (i.keeps h).keeps_setModuleName name⟩

instance KExt.kextFresh (a g x : IRGenerator) (B : List Nat) [i : KExt a g x B] :
    KExt a g x.fresh B := ⟨fun h => (i.keeps h).keeps_fresh⟩

instance KExt.kextEmit (a g x : IRGenerator) (B : List Nat) (b : Nat) (n : Inst)
    [i : KExt a g x B] [o : Owned a b] : KExt a g (x.emit b n) B :=
  ⟨fun h => (i.keeps h).keeps_emit b n o.own⟩

instance KExt.kextSetTerm (a g x : IRGenerator) (B : List Nat) (b : Nat) (t : Terminator)
    [i : KExt a g x B] [o : Owned a b] : KExt a g (x.setTerm b t) B :=
  ⟨fun h => (i.keeps h).keeps_setTerm b t o.own⟩

instance KExt.kextAddFunc (a g x : IRGenerator) (B : List Nat) (name : String) (retType : Ty)
    (params : List Param) [i : KExt a g x B] : KExt a g (x.addFunc name retType params) B :=
  ⟨fun h => (i.keeps h).keeps_addFunc name retType params⟩

instance KExt.kextSetVariadic (a g x : IRGenerator) (B : List Nat) (f : Nat)
    [i : KExt a g x B] : KExt a g (x.setVariadic f) B :=
  ⟨fun h => (i.keeps h).keeps_setVariadic f⟩

instance KExt.kextAppendParam (a g x : IRGenerator) (B : List Nat) (f : Nat) (p : Param)
    [i : KExt a g x B] : KExt a g (x.appendParam f p) B :=
  ⟨fun h => (i.keeps h).keeps_appendParam f p⟩

instance KExt.kextSetParamName (a g x : IRGenerator) (B : List Nat) (f n : Nat) (name : String)
    [i : KExt a g x B] : KExt a g (x.setParamName f n name) B :=
  ⟨fun h => (i.keeps h).keeps_setParamName f n name⟩

instance KExt.kextAddGlobal (a g x : IRGenerator) (B : List Nat) (name : String) (init : Value)
    [i : KExt a g x B] : KExt a g (x.addGlobal name init) B :=
  ⟨fun h => (i.keeps h).keeps_addGlobal name init⟩

instance KExt.kextSetGlobalInit (a g x : IRGenerator) (B : List Nat) (id : Nat) (init : Value)
    [i : KExt a g x B] : KExt a g (x.setGlobalInit id init) B :=
  ⟨fun h => (i.keeps h).keeps_setGlobalInit id init⟩

instance KExt.kextAppendParams (a g x : IRGenerator) (B : List Nat) (names : List String)
    (fn : Nat) [i : KExt a g x B] : KExt a g (appendParams names fn x) B :=
  ⟨fun h => (i.keeps h).keeps_appendParams names fn⟩

instance KExt.kextFoldlAppendParam (a g x : IRGenerator) (B : List Nat) (names : List String)
    (fn : Nat) [i : KExt a g x B] :
    KExt a g (names.foldl (fun g _ => g.appendParam fn ⟨"", .I32⟩) x) B :=
  ⟨fun h => (i.keeps h).keeps_foldlAppendParam names fn⟩

instance KExt.kextIte (a g x y : IRGenerator) (B : List Nat) (c : Prop) [Decidable c]
    [i : KExt a g x B] [j : KExt a g y B] : KExt a g (if c then x else y) B := by
  split
  · exact i
  · exact j

instance PtrVal.ofFuncValue (x : IRGenerator) (f : Nat) : PtrVal (x.funcValue f) := ⟨rfl⟩

instance PtrVal.ofFunc (f : Nat) (sig : Ty) : PtrVal (.Func f sig) := ⟨rfl⟩

instance PtrVal.ofGlobal (id : Nat) (t : Ty) : PtrVal (.Global id t) := ⟨rfl⟩

theorem Keeps.keeps_ext {a g x : IRGenerator} {B : List Nat} [i : KExt a g x B]
    (h : Keeps a g B) : Keeps a x B :=
  i.keeps h

theorem Keeps.keeps_cutFrom {a b c g0 : IRGenerator} {B B0 : List Nat} (_ : Keeps a g0 B)
    (h1 : Keeps a b B) (h2 : Keeps a b B → Keeps a c B0) : Keeps a c B0 := h2 h1

/-- More blocks that exist. -/
theorem Keeps.keeps_more {a g : IRGenerator} {B L : List Nat} (h : Keeps a g B)
    (hm : ∀ b ∈ L, b < g.nblocks) : Keeps a g (L ++ B) :=
  ⟨h.nblocks, h.currentFunc, h.cursor, h.cursorNone, h.cursorValid, h.blocks, h.names,
    h.symbols, fun b hb => by
      rcases List.mem_append.mp hb with hb | hb
      · exact hm b hb
      · exact h.made b hb,
    h.functions⟩

/-- An instruction emitted into a block that may be written to. -/
theorem Keeps.keeps_NewInstOf {a g x g' : IRGenerator} {B : List Nat} [KExt a g x B]
    (h : Keeps a g B) {blk : Option Nat} {mk : Nat → Inst} {ty : Ty} {v : Value}
    (ho : ∀ b, blk = some b → a.currentBB = some b ∨ a.nblocks ≤ b)
    (e : x.NewInst blk mk ty = .ok (v, g')) : Keeps a g' B := by
  cases blk with
  | none => cases e
  | some b =>
    simp only [NewInst_some, Except.ok.injEq, Prod.mk.injEq] at e
    rw [← e.2]
    exact (h.keeps_ext.keeps_emit b _ (ho b rfl)).keeps_fresh

theorem Keeps.keeps_NewStoreOf {a g x g' : IRGenerator} {B : List Nat} [KExt a g x B]
    (h : Keeps a g B) {blk : Option Nat} {src dst : Value} {v : Unit}
    (ho : ∀ b, blk = some b → a.currentBB = some b ∨ a.nblocks ≤ b)
    (e : x.NewStore blk src dst = .ok (v, g')) : Keeps a g' B := by
  obtain ⟨b, rfl, rfl, -⟩ := NewStore_ok e
  exact h.keeps_ext.keeps_emit b _ (ho b rfl)

theorem Keeps.keeps_NewTermOf {a g x g' : IRGenerator} {B : List Nat} [KExt a g x B]
    (h : Keeps a g B) {blk : Option Nat} {t : Terminator} {v : Unit}
    (ho : ∀ b, blk = some b → a.currentBB = some b ∨ a.nblocks ≤ b)
    (e : x.NewTerm blk t = .ok (v, g')) : Keeps a g' B := by
  cases blk with
  | none => cases e
  | some b =>
    simp only [NewTerm_some, Except.ok.injEq, Prod.mk.injEq] at e
    rw [← e.2]
    exact h.keeps_ext.keeps_setTerm b _ (ho b rfl)

theorem Keeps.keeps_NewInst {a g x g' : IRGenerator} {B : List Nat} [KExt a g x B]
    (h : Keeps a g B) {mk : Nat → Inst} {ty : Ty} {v : Value}
    (e : x.NewInst x.currentBB mk ty = .ok (v, g')) : Keeps a g' B :=
  h.keeps_NewInstOf (fun _ hb => (h.keeps_ext : Keeps a x B).keeps_cursorOwned hb) e

theorem Keeps.keeps_NewStore {a g x g' : IRGenerator} {B : List Nat} [KExt a g x B]
    (h : Keeps a g B) {src dst : Value} {v : Unit}
    (e : x.NewStore x.currentBB src dst = .ok (v, g')) : Keeps a g' B :=
  h.keeps_NewStoreOf (fun _ hb => (h.keeps_ext : Keeps a x B).keeps_cursorOwned hb) e

theorem Keeps.keeps_NewTerm {a g x g' : IRGenerator} {B : List Nat} [KExt a g x B]
    (h : Keeps a g B) {t : Terminator} {v : Unit}
    (e : x.NewTerm x.currentBB t = .ok (v, g')) : Keeps a g' B :=
  h.keeps_NewTermOf (fun _ hb => (h.keeps_ext : Keeps a x B).keeps_cursorOwned hb) e

theorem Keeps.keeps_NewInstAt {a g x g' : IRGenerator} {B : List Nat} [KExt a g x B]
    {blk : Option Nat} [o : OwnedOpt a blk] (h : Keeps a g B) {mk : Nat → Inst} {ty : Ty}
    {v : Value} (e : x.NewInst blk mk ty = .ok (v, g')) : Keeps a g' B :=
  h.keeps_NewInstOf o.own e

theorem Keeps.keeps_NewGetElementPtr {a g x g' : IRGenerator} {B : List Nat} [KExt a g x B]
    (h : Keeps a g B) {elemType : Ty} {src v : Value} {indices : List Value}
    (e : x.NewGetElementPtr x.currentBB elemType src indices = .ok (v, g')) :
    Keeps a g' B := by
  obtain ⟨_, -, e⟩ := NewGetElementPtr_ok e
  exact h.keeps_NewInst e

theorem Keeps.keeps_NewICmp {a g x g' : IRGenerator} {B : List Nat} [KExt a g x B]
    (h : Keeps a g B) {pred : IPred} {p q v : Value}
    (e : x.NewICmp x.currentBB pred p q = .ok (v, g')) : Keeps a g' B :=
  h.keeps_NewInst (NewICmp_ok e)

theorem Keeps.keeps_NewStoreAt {a g x g' : IRGenerator} {B : List Nat} [KExt a g x B]
    {blk : Option Nat} [o : OwnedOpt a blk] (h : Keeps a g B) {src dst : Value} {v : Unit}
    (e : x.NewStore blk src dst = .ok (v, g')) : Keeps a g' B :=
  h.keeps_NewStoreOf o.own e

theorem Keeps.keeps_NewTermAt {a g x g' : IRGenerator} {B : List Nat} [KExt a g x B]
    {blk : Option Nat} [o : OwnedOpt a blk] (h : Keeps a g B) {t : Terminator} {v : Unit}
    (e : x.NewTerm blk t = .ok (v, g')) : Keeps a g' B :=
  h.keeps_NewTermOf o.own e

/-- A block made by `NewBlock` joins the blocks that exist. -/
theorem Keeps.keeps_NewBlock {a g x g' : IRGenerator} {B : List Nat} [KExt a g x B]
    (h : Keeps a g B) {name : String} {b : Nat}
    (e : x.NewBlock x.currentFunc name = .ok (b, g')) : Keeps a g' (b :: B) := by
  have hf := (h.keeps_ext : Keeps a x B).currentFunc
  cases hx : x.currentFunc with
  | none =>
    rw [hx] at e
    cases e
  | some f =>
    rw [hx] at e hf
    simp only [NewBlock_some, Except.ok.injEq, Prod.mk.injEq] at e
    rw [← e.2, ← e.1]
    exact h.keeps_ext.keeps_addBlock f name hf.symm

/-- A block made in the function known to be the current one. -/
theorem Keeps.keeps_NewBlockIn {a g x g' : IRGenerator} {B : List Nat} [KExt a g x B]
    {f : Nat} [c : CurFunc a f] (h : Keeps a g B) {name : String} {b : Nat}
    (e : x.NewBlock (some f) name = .ok (b, g')) : Keeps a g' (b :: B) := by
  simp only [NewBlock_some, Except.ok.injEq, Prod.mk.injEq] at e
  rw [← e.2, ← e.1]
  exact h.keeps_ext.keeps_addBlock f name c.cur

theorem Keeps.keeps_curFunc {a g x : IRGenerator} {B : List Nat} [KExt a g x B]
    (h : Keeps a g B) {f : Nat} (e : x.currentFunc = some f) : CurFunc a f := by
  have hf := (h.keeps_ext : Keeps a x B).currentFunc
  rw [e] at hf
  exact ⟨hf.symm⟩

/-- A block made by `NewBlock` may be written to. -/
theorem Keeps.keeps_ownedNew {a g x g' : IRGenerator} {B : List Nat} [KExt a g x B]
    (h : Keeps a g B) {fn : Option Nat} {name : String} {b : Nat}
    (e : x.NewBlock fn name = .ok (b, g')) : Owned a b := by
  cases fn with
  | none => cases e
  | some f =>
    simp only [NewBlock_some, Except.ok.injEq, Prod.mk.injEq] at e
    rw [← e.1]
    exact ⟨Or.inr (h.keeps_ext : Keeps a x B).nblocks⟩

/-- A block made in the current function shows that there is one. -/
theorem Keeps.keeps_inFuncNew {a g x g' : IRGenerator} {B : List Nat} [KExt a g x B]
    (h : Keeps a g B) {name : String} {b : Nat}
    (e : x.NewBlock x.currentFunc name = .ok (b, g')) : InFunc a := by
  have hf := (h.keeps_ext : Keeps a x B).currentFunc
  cases hx : x.currentFunc with
  | none =>
    rw [hx] at e
    cases e
  | some f =>
    rw [hx] at hf
    exact ⟨by rw [← hf]; rfl⟩

theorem Keeps.keeps_inFunc {a g x : IRGenerator} {B : List Nat} [KExt a g x B]
    (h : Keeps a g B) {f : Nat} (e : x.currentFunc = some f) : InFunc a := by
  have hf := (h.keeps_ext : Keeps a x B).currentFunc
  rw [e] at hf
  exact ⟨by rw [← hf]; rfl⟩

theorem Keeps.keeps_inFuncNot {a g x : IRGenerator} {B : List Nat} [KExt a g x B]
    (h : Keeps a g B) (e : ¬ x.currentFunc.isNone = true) : InFunc a := by
  have hf := (h.keeps_ext : Keeps a x B).currentFunc
  cases hx : x.currentFunc with
  | none => simp [hx] at e
  | some f =>
    rw [hx] at hf
    exact ⟨by rw [← hf]; rfl⟩

/-- The result of an instruction with a pointer type has a pointer type. -/
theorem ptrVal_of_NewInst {x g' : IRGenerator} {blk : Option Nat} {mk : Nat → Inst} {t : Ty}
    {v : Value} (e : x.NewInst blk mk (.Pointer t) = .ok (v, g')) : PtrVal v := by
  cases blk with
  | none => cases e
  | some b =>
    simp only [NewInst_some, Except.ok.injEq, Prod.mk.injEq] at e
    rw [← e.1]
    exact ⟨rfl⟩

/-- The current block of a generator kept from `a` may be written to. -/
theorem Keeps.keeps_ownedCursor {a g x : IRGenerator} {B : List Nat} [KExt a g x B]
    (h : Keeps a g B) : OwnedOpt a x.currentBB :=
  ⟨fun _ hb => (h.keeps_ext : Keeps a x B).keeps_cursorOwned hb⟩

theorem Keeps.keeps_asResult {a g x g' : IRGenerator} {B : List Nat} [KExt a g x B]
    (h : Keeps a g B) {mk : Nat → Inst} {ty : Ty} {r : Option Value}
    (e : Irgen.asResult (x.NewInst x.currentBB mk ty) = .ok (r, g')) : Keeps a g' B := by
  unfold Irgen.asResult at e
  split at e
  · cases e
  · rename_i heq
    cases e
    exact h.keeps_NewInst heq

theorem Keeps.keeps_failWith {a g x g' : IRGenerator} {B : List Nat} [KExt a g x B]
    (h : Keeps a g B) {msg : String} {r : Option Value}
    (e : Irgen.failWith x msg = .ok (r, g')) : Keeps a g' B := by
  cases e
  exact h.keeps_ext

theorem Keeps.keeps_getOrDeclare {a g x g' : IRGenerator} {B : List Nat} [KExt a g x B] {name : String} {retType : Ty} {params : List Param} {variadic : Bool} {r : Nat}
    (h : Keeps a g B) (e : getOrDeclare name retType params variadic x = (r, g')) : Keeps a g' B := by
  replace h : Keeps a x B := h.keeps_ext
  unfold Irgen.getOrDeclare at e
  try simp only [IRGenerator.NewAlloca, IRGenerator.NewLoad, IRGenerator.NewBin, IRGenerator.NewICmp, IRGenerator.NewFCmp, IRGenerator.NewGetElementPtr, IRGenerator.funcValue, NewCall_func, IRGenerator.NewCall, IRGenerator.NewZExt, IRGenerator.NewSelect, IRGenerator.NewBr, IRGenerator.NewCondBr, IRGenerator.NewRet, IRGenerator.NewUnreachable, IRGenerator.NewFunc, IRGenerator.NewGlobalDef] at e
  repeat' (first
    | (first | (revert e; with_reducible apply (Keeps.keeps_less ∘ (h.keeps_asResult)); done) | (revert e; with_reducible apply (Keeps.keeps_less ∘ (h.keeps_failWith)); done) | (revert e; with_reducible apply (Keeps.keeps_less ∘ (h.keeps_NewInst)); done) | (revert e; with_reducible apply (Keeps.keeps_less ∘ (h.keeps_NewStore)); done) | (revert e; with_reducible apply (Keeps.keeps_less ∘ (h.keeps_NewTerm)); done) | (revert e; with_reducible apply (Keeps.keeps_less ∘ (h.keeps_NewInstAt)); done) | (revert e; with_reducible apply (Keeps.keeps_less ∘ (h.keeps_NewStoreAt)); done) | (revert e; with_reducible apply (Keeps.keeps_less ∘ (h.keeps_NewTermAt)); done) | (revert e; with_reducible apply (Keeps.keeps_less ∘ (h.keeps_NewBlock)); done) | (revert e; with_reducible apply (Keeps.keeps_less ∘ (h.keeps_NewBlockIn)); done) | fail)
    | (apply stepWith e; (focus (with_reducible apply (@ite_ok _ _ _ _ _ _); done)); intro e2
       clear e
       rcases e2 with ⟨hc, e⟩ | ⟨hc, e⟩ <;>
       try (apply stepWith hc; (focus (with_reducible apply (h.keeps_inFuncNot); done)); intro i1))
    | (simp only [bind_assoc, pure_bind] at e)
    | (rw [bind_ok] at e
       obtain ⟨⟨x1, g1⟩, e1, e⟩ := e
       try dsimp only at e
       try (apply stepWith e1; (focus (with_reducible apply (h.keeps_inFuncNew); done)); intro f0)
       try (apply stepWith e1; (focus (with_reducible apply (h.keeps_ownedNew); done)); intro f1)
       try (apply stepWith e1; (focus (with_reducible apply (ptrVal_of_NewInst); done)); intro f2)
       first
         | (apply stepWith e1; (focus (with_reducible apply (h.keeps_NewInst); done)); clear h; intro h) | (apply stepWith e1; (focus (with_reducible apply (h.keeps_NewStore); done)); clear h; intro h) | (apply stepWith e1; (focus (with_reducible apply (h.keeps_NewTerm); done)); clear h; intro h) | (apply stepWith e1; (focus (with_reducible apply (h.keeps_NewInstAt); done)); clear h; intro h) | (apply stepWith e1; (focus (with_reducible apply (h.keeps_NewStoreAt); done)); clear h; intro h) | (apply stepWith e1; (focus (with_reducible apply (h.keeps_NewTermAt); done)); clear h; intro h) | (apply stepWith e1; (focus (with_reducible apply (h.keeps_NewBlock); done)); clear h; intro h) | (apply stepWith e1; (focus (with_reducible apply (h.keeps_NewBlockIn); done)); clear h; intro h)
         | (cases e1)
         | (refine Keeps.keeps_cutFrom h (b := g1) ?_ ?_ <;>
             first | (intro h2; clear h e1; rename' h2 => h) | (clear e; rename' e1 => e))
         | fail)
    | (split at e <;>
       try (rename_i heq
            try (apply stepWith heq; (focus (with_reducible apply (h.keeps_inFunc); done)); intro i2)
            try (apply stepWith heq; (focus (with_reducible apply (h.keeps_curFunc); done)); intro i3)
            try (first | (apply stepWith heq; (focus (with_reducible apply (h.keeps_NewInst); done)); clear h; intro h) | (apply stepWith heq; (focus (with_reducible apply (h.keeps_NewStore); done)); clear h; intro h) | (apply stepWith heq; (focus (with_reducible apply (h.keeps_NewTerm); done)); clear h; intro h) | (apply stepWith heq; (focus (with_reducible apply (h.keeps_NewInstAt); done)); clear h; intro h) | (apply stepWith heq; (focus (with_reducible apply (h.keeps_NewStoreAt); done)); clear h; intro h) | (apply stepWith heq; (focus (with_reducible apply (h.keeps_NewTermAt); done)); clear h; intro h) | (apply stepWith heq; (focus (with_reducible apply (h.keeps_NewBlock); done)); clear h; intro h) | (apply stepWith heq; (focus (with_reducible apply (h.keeps_NewBlockIn); done)); clear h; intro h) | fail)))
    | (cases e; first | done | exact Keeps.keeps_less (Keeps.keeps_ext h) | fail)
    | (dsimp only at e)
    | fail)

instance KExt.kextGetOrDeclare (a g x : IRGenerator) (B : List Nat) (name : String) (retType : Ty) (params : List Param) (variadic : Bool) [i : KExt a g x B] :
    KExt a g (getOrDeclare name retType params variadic x).2 B :=
  ⟨fun h => h.keeps_getOrDeclare rfl⟩

theorem Keeps.keeps_resolveCallee {a g x g' : IRGenerator} {B : List Nat} [KExt a g x B] {funcName : String} {r : Value}
    (h : Keeps a g B) (e : resolveCallee funcName x = (r, g')) : Keeps a g' B := by
  replace h : Keeps a x B := h.keeps_ext
  unfold Irgen.resolveCallee at e
  split at e
  · cases e
    exact h
  · simp only [IRGenerator.NewFunc, Prod.mk.injEq] at e
    rw [← e.2]
    refine ((h.keeps_addFunc funcName .I32 []).keeps_bindSymbol funcName
      ((x.addFunc funcName .I32 []).funcValue x.nfuncs) rfl).keeps_noteLazy
      funcName x.nfuncs h.functions.nfuncs (Nat.lt_succ_self _) ?_ ?_ ?_
    · simp [update]
    · simp [update]
    · simp

instance KExt.kextResolveCallee (a g x : IRGenerator) (B : List Nat) (funcName : String) [i : KExt a g x B] :
    KExt a g (resolveCallee funcName x).2 B :=
  ⟨fun h => h.keeps_resolveCallee rfl⟩

theorem Keeps.keeps_generateStringLiteral {a g x g' : IRGenerator} {B : List Nat} [KExt a g x B] {value : String} {r : Value}
    (h : Keeps a g B) (e : generateStringLiteral value x = (r, g')) : Keeps a g' B := by
  replace h : Keeps a x B := h.keeps_ext
  unfold Irgen.generateStringLiteral at e
  try simp only [IRGenerator.NewAlloca, IRGenerator.NewLoad, IRGenerator.NewBin, IRGenerator.NewICmp, IRGenerator.NewFCmp, IRGenerator.NewGetElementPtr, IRGenerator.funcValue, NewCall_func, IRGenerator.NewCall, IRGenerator.NewZExt, IRGenerator.NewSelect, IRGenerator.NewBr, IRGenerator.NewCondBr, IRGenerator.NewRet, IRGenerator.NewUnreachable, IRGenerator.NewFunc, IRGenerator.NewGlobalDef] at e
  repeat' (first
    | (first | (revert e; with_reducible apply (Keeps.keeps_less ∘ (h.keeps_asResult)); done) | (revert e; with_reducible apply (Keeps.keeps_less ∘ (h.keeps_failWith)); done) | (revert e; with_reducible apply (Keeps.keeps_less ∘ (h.keeps_NewInst)); done) | (revert e; with_reducible apply (Keeps.keeps_less ∘ (h.keeps_NewStore)); done) | (revert e; with_reducible apply (Keeps.keeps_less ∘ (h.keeps_NewTerm)); done) | (revert e; with_reducible apply (Keeps.keeps_less ∘ (h.keeps_NewInstAt)); done) | (revert e; with_reducible apply (Keeps.keeps_less ∘ (h.keeps_NewStoreAt)); done) | (revert e; with_reducible apply (Keeps.keeps_less ∘ (h.keeps_NewTermAt)); done) | (revert e; with_reducible apply (Keeps.keeps_less ∘ (h.keeps_NewBlock)); done) | (revert e; with_reducible apply (Keeps.keeps_less ∘ (h.keeps_NewBlockIn)); done) | fail)
    | (apply stepWith e; (focus (with_reducible apply (@ite_ok _ _ _ _ _ _); done)); intro e2
       clear e
       rcases e2 with ⟨hc, e⟩ | ⟨hc, e⟩ <;>
       try (apply stepWith hc; (focus (with_reducible apply (h.keeps_inFuncNot); done)); intro i1))
    | (simp only [bind_assoc, pure_bind] at e)
    | (rw [bind_ok] at e
       obtain ⟨⟨x1, g1⟩, e1, e⟩ := e
       try dsimp only at e
       try (apply stepWith e1; (focus (with_reducible apply (h.keeps_inFuncNew); done)); intro f0)
       try (apply stepWith e1; (focus (with_reducible apply (h.keeps_ownedNew); done)); intro f1)
       try (apply stepWith e1; (focus (with_reducible apply (ptrVal_of_NewInst); done)); intro f2)
       first
         | (apply stepWith e1; (focus (with_reducible apply (h.keeps_NewInst); done)); clear h; intro h) | (apply stepWith e1; (focus (with_reducible apply (h.keeps_NewStore); done)); clear h; intro h) | (apply stepWith e1; (focus (with_reducible apply (h.keeps_NewTerm); done)); clear h; intro h) | (apply stepWith e1; (focus (with_reducible apply (h.keeps_NewInstAt); done)); clear h; intro h) | (apply stepWith e1; (focus (with_reducible apply (h.keeps_NewStoreAt); done)); clear h; intro h) | (apply stepWith e1; (focus (with_reducible apply (h.keeps_NewTermAt); done)); clear h; intro h) | (apply stepWith e1; (focus (with_reducible apply (h.keeps_NewBlock); done)); clear h; intro h) | (apply stepWith e1; (focus (with_reducible apply (h.keeps_NewBlockIn); done)); clear h; intro h)
         | (cases e1)
         | (refine Keeps.keeps_cutFrom h (b := g1) ?_ ?_ <;>
             first | (intro h2; clear h e1; rename' h2 => h) | (clear e; rename' e1 => e))
         | fail)
    | (split at e <;>
       try (rename_i heq
            try (apply stepWith heq; (focus (with_reducible apply (h.keeps_inFunc); done)); intro i2)
            try (apply stepWith heq; (focus (with_reducible apply (h.keeps_curFunc); done)); intro i3)
            try (first | (apply stepWith heq; (focus (with_reducible apply (h.keeps_NewInst); done)); clear h; intro h) | (apply stepWith heq; (focus (with_reducible apply (h.keeps_NewStore); done)); clear h; intro h) | (apply stepWith heq; (focus (with_reducible apply (h.keeps_NewTerm); done)); clear h; intro h) | (apply stepWith heq; (focus (with_reducible apply (h.keeps_NewInstAt); done)); clear h; intro h) | (apply stepWith heq; (focus (with_reducible apply (h.keeps_NewStoreAt); done)); clear h; intro h) | (apply stepWith heq; (focus (with_reducible apply (h.keeps_NewTermAt); done)); clear h; intro h) | (apply stepWith heq; (focus (with_reducible apply (h.keeps_NewBlock); done)); clear h; intro h) | (apply stepWith heq; (focus (with_reducible apply (h.keeps_NewBlockIn); done)); clear h; intro h) | fail)))
    | (cases e; first | done | exact Keeps.keeps_less (Keeps.keeps_ext h) | fail)
    | (dsimp only at e)
    | fail)

instance KExt.kextGenerateStringLiteral (a g x : IRGenerator) (B : List Nat) (value : String) [i : KExt a g x B] :
    KExt a g (generateStringLiteral value x).2 B :=
  ⟨fun h => h.keeps_generateStringLiteral rfl⟩

theorem Keeps.keeps_functionReturnType {a g x g' : IRGenerator} {B : List Nat} [KExt a g x B] {returnType : Option Expression} {r : Ty}
    (h : Keeps a g B) (e : functionReturnType returnType x = (r, g')) : Keeps a g' B := by
  replace h : Keeps a x B := h.keeps_ext
  unfold Irgen.functionReturnType at e
  try simp only [IRGenerator.NewAlloca, IRGenerator.NewLoad, IRGenerator.NewBin, IRGenerator.NewICmp, IRGenerator.NewFCmp, IRGenerator.NewGetElementPtr, IRGenerator.funcValue, NewCall_func, IRGenerator.NewCall, IRGenerator.NewZExt, IRGenerator.NewSelect, IRGenerator.NewBr, IRGenerator.NewCondBr, IRGenerator.NewRet, IRGenerator.NewUnreachable, IRGenerator.NewFunc, IRGenerator.NewGlobalDef] at e
  repeat' (first
    | (first | (revert e; with_reducible apply (Keeps.keeps_less ∘ (h.keeps_asResult)); done) | (revert e; with_reducible apply (Keeps.keeps_less ∘ (h.keeps_failWith)); done) | (revert e; with_reducible apply (Keeps.keeps_less ∘ (h.keeps_NewInst)); done) | (revert e; with_reducible apply (Keeps.keeps_less ∘ (h.keeps_NewStore)); done) | (revert e; with_reducible apply (Keeps.keeps_less ∘ (h.keeps_NewTerm)); done) | (revert e; with_reducible apply (Keeps.keeps_less ∘ (h.keeps_NewInstAt)); done) | (revert e; with_reducible apply (Keeps.keeps_less ∘ (h.keeps_NewStoreAt)); done) | (revert e; with_reducible apply (Keeps.keeps_less ∘ (h.keeps_NewTermAt)); done) | (revert e; with_reducible apply (Keeps.keeps_less ∘ (h.keeps_NewBlock)); done) | (revert e; with_reducible apply (Keeps.keeps_less ∘ (h.keeps_NewBlockIn)); done) | fail)
    | (apply stepWith e; (focus (with_reducible apply (@ite_ok _ _ _ _ _ _); done)); intro e2
       clear e
       rcases e2 with ⟨hc, e⟩ | ⟨hc, e⟩ <;>
       try (apply stepWith hc; (focus (with_reducible apply (h.keeps_inFuncNot); done)); intro i1))
    | (simp only [bind_assoc, pure_bind] at e)
    | (rw [bind_ok] at e
       obtain ⟨⟨x1, g1⟩, e1, e⟩ := e
       try dsimp only at e
       try (apply stepWith e1; (focus (with_reducible apply (h.keeps_inFuncNew); done)); intro f0)
       try (apply stepWith e1; (focus (with_reducible apply (h.keeps_ownedNew); done)); intro f1)
       try (apply stepWith e1; (focus (with_reducible apply (ptrVal_of_NewInst); done)); intro f2)
       first
         | (apply stepWith e1; (focus (with_reducible apply (h.keeps_NewInst); done)); clear h; intro h) | (apply stepWith e1; (focus (with_reducible apply (h.keeps_NewStore); done)); clear h; intro h) | (apply stepWith e1; (focus (with_reducible apply (h.keeps_NewTerm); done)); clear h; intro h) | (apply stepWith e1; (focus (with_reducible apply (h.keeps_NewInstAt); done)); clear h; intro h) | (apply stepWith e1; (focus (with_reducible apply (h.keeps_NewStoreAt); done)); clear h; intro h) | (apply stepWith e1; (focus (with_reducible apply (h.keeps_NewTermAt); done)); clear h; intro h) | (apply stepWith e1; (focus (with_reducible apply (h.keeps_NewBlock); done)); clear h; intro h) | (apply stepWith e1; (focus (with_reducible apply (h.keeps_NewBlockIn); done)); clear h; intro h)
         | (cases e1)
         | (refine Keeps.keeps_cutFrom h (b := g1) ?_ ?_ <;>
             first | (intro h2; clear h e1; rename' h2 => h) | (clear e; rename' e1 => e))
         | fail)
    | (split at e <;>
       try (rename_i heq
            try (apply stepWith heq; (focus (with_reducible apply (h.keeps_inFunc); done)); intro i2)
            try (apply stepWith heq; (focus (with_reducible apply (h.keeps_curFunc); done)); intro i3)
            try (first | (apply stepWith heq; (focus (with_reducible apply (h.keeps_NewInst); done)); clear h; intro h) | (apply stepWith heq; (focus (with_reducible apply (h.keeps_NewStore); done)); clear h; intro h) | (apply stepWith heq; (focus (with_reducible apply (h.keeps_NewTerm); done)); clear h; intro h) | (apply stepWith heq; (focus (with_reducible apply (h.keeps_NewInstAt); done)); clear h; intro h) | (apply stepWith heq; (focus (with_reducible apply (h.keeps_NewStoreAt); done)); clear h; intro h) | (apply stepWith heq; (focus (with_reducible apply (h.keeps_NewTermAt); done)); clear h; intro h) | (apply stepWith heq; (focus (with_reducible apply (h.keeps_NewBlock); done)); clear h; intro h) | (apply stepWith heq; (focus (with_reducible apply (h.keeps_NewBlockIn); done)); clear h; intro h) | fail)))
    | (cases e; first | done | exact Keeps.keeps_less (Keeps.keeps_ext h) | fail)
    | (dsimp only at e)
    | fail)

instance KExt.kextFunctionReturnType (a g x : IRGenerator) (B : List Nat) (returnType : Option Expression) [i : KExt a g x B] :
    KExt a g (functionReturnType returnType x).2 B :=
  ⟨fun h => h.keeps_functionReturnType rfl⟩

theorem Keeps.keeps_generateConstantExpression {a g x g' : IRGenerator} {B : List Nat} [KExt a g x B] {ex : Expression} {r : Option Value}
    (h : Keeps a g B) (e : generateConstantExpression ex x = (r, g')) : Keeps a g' B := by
  replace h : Keeps a x B := h.keeps_ext
  unfold Irgen.generateConstantExpression at e
  try simp only [IRGenerator.NewAlloca, IRGenerator.NewLoad, IRGenerator.NewBin, IRGenerator.NewICmp, IRGenerator.NewFCmp, IRGenerator.NewGetElementPtr, IRGenerator.funcValue, NewCall_func, IRGenerator.NewCall, IRGenerator.NewZExt, IRGenerator.NewSelect, IRGenerator.NewBr, IRGenerator.NewCondBr, IRGenerator.NewRet, IRGenerator.NewUnreachable, IRGenerator.NewFunc, IRGenerator.NewGlobalDef] at e
  repeat' (first
    | (first | (revert e; with_reducible apply (Keeps.keeps_less ∘ (h.keeps_asResult)); done) | (revert e; with_reducible apply (Keeps.keeps_less ∘ (h.keeps_failWith)); done) | (revert e; with_reducible apply (Keeps.keeps_less ∘ (h.keeps_NewInst)); done) | (revert e; with_reducible apply (Keeps.keeps_less ∘ (h.keeps_NewStore)); done) | (revert e; with_reducible apply (Keeps.keeps_less ∘ (h.keeps_NewTerm)); done) | (revert e; with_reducible apply (Keeps.keeps_less ∘ (h.keeps_NewInstAt)); done) | (revert e; with_reducible apply (Keeps.keeps_less ∘ (h.keeps_NewStoreAt)); done) | (revert e; with_reducible apply (Keeps.keeps_less ∘ (h.keeps_NewTermAt)); done) | (revert e; with_reducible apply (Keeps.keeps_less ∘ (h.keeps_NewBlock)); done) | (revert e; with_reducible apply (Keeps.keeps_less ∘ (h.keeps_NewBlockIn)); done) | fail)
    | (apply stepWith e; (focus (with_reducible apply (@ite_ok _ _ _ _ _ _); done)); intro e2
       clear e
       rcases e2 with ⟨hc, e⟩ | ⟨hc, e⟩ <;>
       try (apply stepWith hc; (focus (with_reducible apply (h.keeps_inFuncNot); done)); intro i1))
    | (simp only [bind_assoc, pure_bind] at e)
    | (rw [bind_ok] at e
       obtain ⟨⟨x1, g1⟩, e1, e⟩ := e
       try dsimp only at e
       try (apply stepWith e1; (focus (with_reducible apply (h.keeps_inFuncNew); done)); intro f0)
       try (apply stepWith e1; (focus (with_reducible apply (h.keeps_ownedNew); done)); intro f1)
       try (apply stepWith e1; (focus (with_reducible apply (ptrVal_of_NewInst); done)); intro f2)
       first
         | (apply stepWith e1; (focus (with_reducible apply (h.keeps_NewInst); done)); clear h; intro h) | (apply stepWith e1; (focus (with_reducible apply (h.keeps_NewStore); done)); clear h; intro h) | (apply stepWith e1; (focus (with_reducible apply (h.keeps_NewTerm); done)); clear h; intro h) | (apply stepWith e1; (focus (with_reducible apply (h.keeps_NewInstAt); done)); clear h; intro h) | (apply stepWith e1; (focus (with_reducible apply (h.keeps_NewStoreAt); done)); clear h; intro h) | (apply stepWith e1; (focus (with_reducible apply (h.keeps_NewTermAt); done)); clear h; intro h) | (apply stepWith e1; (focus (with_reducible apply (h.keeps_NewBlock); done)); clear h; intro h) | (apply stepWith e1; (focus (with_reducible apply (h.keeps_NewBlockIn); done)); clear h; intro h)
         | (cases e1)
         | (refine Keeps.keeps_cutFrom h (b := g1) ?_ ?_ <;>
             first | (intro h2; clear h e1; rename' h2 => h) | (clear e; rename' e1 => e))
         | fail)
    | (split at e <;>
       try (rename_i heq
            try (apply stepWith heq; (focus (with_reducible apply (h.keeps_inFunc); done)); intro i2)
            try (apply stepWith heq; (focus (with_reducible apply (h.keeps_curFunc); done)); intro i3)
            try (first | (apply stepWith heq; (focus (with_reducible apply (h.keeps_generateStringLiteral); done)); clear h; intro h) | (apply stepWith heq; (focus (with_reducible apply (h.keeps_NewInst); done)); clear h; intro h) | (apply stepWith heq; (focus (with_reducible apply (h.keeps_NewStore); done)); clear h; intro h) | (apply stepWith heq; (focus (with_reducible apply (h.keeps_NewTerm); done)); clear h; intro h) | (apply stepWith heq; (focus (with_reducible apply (h.keeps_NewInstAt); done)); clear h; intro h) | (apply stepWith heq; (focus (with_reducible apply (h.keeps_NewStoreAt); done)); clear h; intro h) | (apply stepWith heq; (focus (with_reducible apply (h.keeps_NewTermAt); done)); clear h; intro h) | (apply stepWith heq; (focus (with_reducible apply (h.keeps_NewBlock); done)); clear h; intro h) | (apply stepWith heq; (focus (with_reducible apply (h.keeps_NewBlockIn); done)); clear h; intro h) | fail)))
    | (cases e; first | done | exact Keeps.keeps_less (Keeps.keeps_ext h) | fail)
    | (dsimp only at e)
    | fail)

instance KExt.kextGenerateConstantExpression (a g x : IRGenerator) (B : List Nat) (ex : Expression) [i : KExt a g x B] :
    KExt a g (generateConstantExpression ex x).2 B :=
  ⟨fun h => h.keeps_generateConstantExpression rfl⟩

theorem Keeps.keeps_declareGlobal {a g : IRGenerator} {B : List Nat} (h : Keeps a g B)
    (varName : String) (varType : Ty) (value : Option Expression) :
    Keeps a (declareGlobal varName varType value g) B := by
  unfold Irgen.declareGlobal
  simp only [IRGenerator.NewGlobalDef]
  split
  · split
    · rename_i heq
      exact (h.keeps_generateConstantExpression heq).keeps_ext
    · rename_i heq
      exact h.keeps_generateConstantExpression heq
  · exact h.keeps_ext

instance KExt.kextDeclareGlobal (a g x : IRGenerator) (B : List Nat) (varName : String)
    (varType : Ty) (value : Option Expression) [i : KExt a g x B] :
    KExt a g (declareGlobal varName varType value x) B :=
  ⟨fun h => (i.keeps h).keeps_declareGlobal varName varType value⟩

theorem Keeps.keeps_generateIdentifier {a g x g' : IRGenerator} {B : List Nat} [KExt a g x B] {name : String} {r : Option Value}
    (h : Keeps a g B) (e : generateIdentifier name x = .ok (r, g')) : Keeps a g' B := by
  replace h : Keeps a x B := h.keeps_ext
  unfold Irgen.generateIdentifier at e
  try simp only [IRGenerator.NewAlloca, IRGenerator.NewLoad, IRGenerator.NewBin, IRGenerator.NewICmp, IRGenerator.NewFCmp, IRGenerator.NewGetElementPtr, IRGenerator.funcValue, NewCall_func, IRGenerator.NewCall, IRGenerator.NewZExt, IRGenerator.NewSelect, IRGenerator.NewBr, IRGenerator.NewCondBr, IRGenerator.NewRet, IRGenerator.NewUnreachable, IRGenerator.NewFunc, IRGenerator.NewGlobalDef] at e
  repeat' (first
    | (first | (revert e; with_reducible apply (Keeps.keeps_less ∘ (h.keeps_asResult)); done) | (revert e; with_reducible apply (Keeps.keeps_less ∘ (h.keeps_failWith)); done) | (revert e; with_reducible apply (Keeps.keeps_less ∘ (h.keeps_NewInst)); done) | (revert e; with_reducible apply (Keeps.keeps_less ∘ (h.keeps_NewStore)); done) | (revert e; with_reducible apply (Keeps.keeps_less ∘ (h.keeps_NewTerm)); done) | (revert e; with_reducible apply (Keeps.keeps_less ∘ (h.keeps_NewInstAt)); done) | (revert e; with_reducible apply (Keeps.keeps_less ∘ (h.keeps_NewStoreAt)); done) | (revert e; with_reducible apply (Keeps.keeps_less ∘ (h.keeps_NewTermAt)); done) | (revert e; with_reducible apply (Keeps.keeps_less ∘ (h.keeps_NewBlock)); done) | (revert e; with_reducible apply (Keeps.keeps_less ∘ (h.keeps_NewBlockIn)); done) | fail)
    | (apply stepWith e; (focus (with_reducible apply (@ite_ok _ _ _ _ _ _); done)); intro e2
       clear e
       rcases e2 with ⟨hc, e⟩ | ⟨hc, e⟩ <;>
       try (apply stepWith hc; (focus (with_reducible apply (h.keeps_inFuncNot); done)); intro i1))
    | (simp only [bind_assoc, pure_bind] at e)
    | (rw [bind_ok] at e
       obtain ⟨⟨x1, g1⟩, e1, e⟩ := e
       try dsimp only at e
       try (apply stepWith e1; (focus (with_reducible apply (h.keeps_inFuncNew); done)); intro f0)
       try (apply stepWith e1; (focus (with_reducible apply (h.keeps_ownedNew); done)); intro f1)
       try (apply stepWith e1; (focus (with_reducible apply (ptrVal_of_NewInst); done)); intro f2)
       first
         | (apply stepWith e1; (focus (with_reducible apply (h.keeps_NewInst); done)); clear h; intro h) | (apply stepWith e1; (focus (with_reducible apply (h.keeps_NewStore); done)); clear h; intro h) | (apply stepWith e1; (focus (with_reducible apply (h.keeps_NewTerm); done)); clear h; intro h) | (apply stepWith e1; (focus (with_reducible apply (h.keeps_NewInstAt); done)); clear h; intro h) | (apply stepWith e1; (focus (with_reducible apply (h.keeps_NewStoreAt); done)); clear h; intro h) | (apply stepWith e1; (focus (with_reducible apply (h.keeps_NewTermAt); done)); clear h; intro h) | (apply stepWith e1; (focus (with_reducible apply (h.keeps_NewBlock); done)); clear h; intro h) | (apply stepWith e1; (focus (with_reducible apply (h.keeps_NewBlockIn); done)); clear h; intro h)
         | (cases e1)
         | (refine Keeps.keeps_cutFrom h (b := g1) ?_ ?_ <;>
             first | (intro h2; clear h e1; rename' h2 => h) | (clear e; rename' e1 => e))
         | fail)
    | (split at e <;>
       try (rename_i heq
            try (apply stepWith heq; (focus (with_reducible apply (h.keeps_inFunc); done)); intro i2)
            try (apply stepWith heq; (focus (with_reducible apply (h.keeps_curFunc); done)); intro i3)
            try (first | (apply stepWith heq; (focus (with_reducible apply (h.keeps_NewInst); done)); clear h; intro h) | (apply stepWith heq; (focus (with_reducible apply (h.keeps_NewStore); done)); clear h; intro h) | (apply stepWith heq; (focus (with_reducible apply (h.keeps_NewTerm); done)); clear h; intro h) | (apply stepWith heq; (focus (with_reducible apply (h.keeps_NewInstAt); done)); clear h; intro h) | (apply stepWith heq; (focus (with_reducible apply (h.keeps_NewStoreAt); done)); clear h; intro h) | (apply stepWith heq; (focus (with_reducible apply (h.keeps_NewTermAt); done)); clear h; intro h) | (apply stepWith heq; (focus (with_reducible apply (h.keeps_NewBlock); done)); clear h; intro h) | (apply stepWith heq; (focus (with_reducible apply (h.keeps_NewBlockIn); done)); clear h; intro h) | fail)))
    | (cases e; first | done | exact Keeps.keeps_less (Keeps.keeps_ext h) | fail)
    | (dsimp only at e)
    | fail)

theorem Keeps.keeps_prefixOperator {a g x g' : IRGenerator} {B : List Nat} [KExt a g x B] {op : String} {right : Value} {r : Option Value}
    (h : Keeps a g B) (e : prefixOperator op right x = .ok (r, g')) : Keeps a g' B := by
  replace h : Keeps a x B := h.keeps_ext
  unfold Irgen.prefixOperator at e
  try simp only [IRGenerator.NewAlloca, IRGenerator.NewLoad, IRGenerator.NewBin, IRGenerator.NewICmp, IRGenerator.NewFCmp, IRGenerator.NewGetElementPtr, IRGenerator.funcValue, NewCall_func, IRGenerator.NewCall, IRGenerator.NewZExt, IRGenerator.NewSelect, IRGenerator.NewBr, IRGenerator.NewCondBr, IRGenerator.NewRet, IRGenerator.NewUnreachable, IRGenerator.NewFunc, IRGenerator.NewGlobalDef] at e
  repeat' (first
    | (first | (revert e; with_reducible apply (Keeps.keeps_less ∘ (h.keeps_asResult)); done) | (revert e; with_reducible apply (Keeps.keeps_less ∘ (h.keeps_failWith)); done) | (revert e; with_reducible apply (Keeps.keeps_less ∘ (h.keeps_NewInst)); done) | (revert e; with_reducible apply (Keeps.keeps_less ∘ (h.keeps_NewStore)); done) | (revert e; with_reducible apply (Keeps.keeps_less ∘ (h.keeps_NewTerm)); done) | (revert e; with_reducible apply (Keeps.keeps_less ∘ (h.keeps_NewInstAt)); done) | (revert e; with_reducible apply (Keeps.keeps_less ∘ (h.keeps_NewStoreAt)); done) | (revert e; with_reducible apply (Keeps.keeps_less ∘ (h.keeps_NewTermAt)); done) | (revert e; with_reducible apply (Keeps.keeps_less ∘ (h.keeps_NewBlock)); done) | (revert e; with_reducible apply (Keeps.keeps_less ∘ (h.keeps_NewBlockIn)); done) | fail)
    | (apply stepWith e; (focus (with_reducible apply (@ite_ok _ _ _ _ _ _); done)); intro e2
       clear e
       rcases e2 with ⟨hc, e⟩ | ⟨hc, e⟩ <;>
       try (apply stepWith hc; (focus (with_reducible apply (h.keeps_inFuncNot); done)); intro i1))
    | (simp only [bind_assoc, pure_bind] at e)
    | (rw [bind_ok] at e
       obtain ⟨⟨x1, g1⟩, e1, e⟩ := e
       try dsimp only at e
       try (apply stepWith e1; (focus (with_reducible apply (h.keeps_inFuncNew); done)); intro f0)
       try (apply stepWith e1; (focus (with_reducible apply (h.keeps_ownedNew); done)); intro f1)
       try (apply stepWith e1; (focus (with_reducible apply (ptrVal_of_NewInst); done)); intro f2)
       first
         | (apply stepWith e1; (focus (with_reducible apply (h.keeps_NewInst); done)); clear h; intro h) | (apply stepWith e1; (focus (with_reducible apply (h.keeps_NewStore); done)); clear h; intro h) | (apply stepWith e1; (focus (with_reducible apply (h.keeps_NewTerm); done)); clear h; intro h) | (apply stepWith e1; (focus (with_reducible apply (h.keeps_NewInstAt); done)); clear h; intro h) | (apply stepWith e1; (focus (with_reducible apply (h.keeps_NewStoreAt); done)); clear h; intro h) | (apply stepWith e1; (focus (with_reducible apply (h.keeps_NewTermAt); done)); clear h; intro h) | (apply stepWith e1; (focus (with_reducible apply (h.keeps_NewBlock); done)); clear h; intro h) | (apply stepWith e1; (focus (with_reducible apply (h.keeps_NewBlockIn); done)); clear h; intro h)
         | (cases e1)
         | (refine Keeps.keeps_cutFrom h (b := g1) ?_ ?_ <;>
             first | (intro h2; clear h e1; rename' h2 => h) | (clear e; rename' e1 => e))
         | fail)
    | (split at e <;>
       try (rename_i heq
            try (apply stepWith heq; (focus (with_reducible apply (h.keeps_inFunc); done)); intro i2)
            try (apply stepWith heq; (focus (with_reducible apply (h.keeps_curFunc); done)); intro i3)
            try (first | (apply stepWith heq; (focus (with_reducible apply (h.keeps_NewInst); done)); clear h; intro h) | (apply stepWith heq; (focus (with_reducible apply (h.keeps_NewStore); done)); clear h; intro h) | (apply stepWith heq; (focus (with_reducible apply (h.keeps_NewTerm); done)); clear h; intro h) | (apply stepWith heq; (focus (with_reducible apply (h.keeps_NewInstAt); done)); clear h; intro h) | (apply stepWith heq; (focus (with_reducible apply (h.keeps_NewStoreAt); done)); clear h; intro h) | (apply stepWith heq; (focus (with_reducible apply (h.keeps_NewTermAt); done)); clear h; intro h) | (apply stepWith heq; (focus (with_reducible apply (h.keeps_NewBlock); done)); clear h; intro h) | (apply stepWith heq; (focus (with_reducible apply (h.keeps_NewBlockIn); done)); clear h; intro h) | fail)))
    | (cases e; first | done | exact Keeps.keeps_less (Keeps.keeps_ext h) | fail)
    | (dsimp only at e)
    | fail)

theorem Keeps.keeps_generatePostfixExpression {a g x g' : IRGenerator} {B : List Nat} [KExt a g x B] {left : Expression} {op : String} {r : Option Value}
    (h : Keeps a g B) (e : generatePostfixExpression left op x = .ok (r, g')) : Keeps a g' B := by
  replace h : Keeps a x B := h.keeps_ext
  unfold Irgen.generatePostfixExpression at e
  try simp only [IRGenerator.NewAlloca, IRGenerator.NewLoad, IRGenerator.NewBin, IRGenerator.NewICmp, IRGenerator.NewFCmp, IRGenerator.NewGetElementPtr, IRGenerator.funcValue, NewCall_func, IRGenerator.NewCall, IRGenerator.NewZExt, IRGenerator.NewSelect, IRGenerator.NewBr, IRGenerator.NewCondBr, IRGenerator.NewRet, IRGenerator.NewUnreachable, IRGenerator.NewFunc, IRGenerator.NewGlobalDef] at e
  repeat' (first
    | (first | (revert e; with_reducible apply (Keeps.keeps_less ∘ (h.keeps_asResult)); done) | (revert e; with_reducible apply (Keeps.keeps_less ∘ (h.keeps_failWith)); done) | (revert e; with_reducible apply (Keeps.keeps_less ∘ (h.keeps_NewInst)); done) | (revert e; with_reducible apply (Keeps.keeps_less ∘ (h.keeps_NewStore)); done) | (revert e; with_reducible apply (Keeps.keeps_less ∘ (h.keeps_NewTerm)); done) | (revert e; with_reducible apply (Keeps.keeps_less ∘ (h.keeps_NewInstAt)); done) | (revert e; with_reducible apply (Keeps.keeps_less ∘ (h.keeps_NewStoreAt)); done) | (revert e; with_reducible apply (Keeps.keeps_less ∘ (h.keeps_NewTermAt)); done) | (revert e; with_reducible apply (Keeps.keeps_less ∘ (h.keeps_NewBlock)); done) | (revert e; with_reducible apply (Keeps.keeps_less ∘ (h.keeps_NewBlockIn)); done) | fail)
    | (apply stepWith e; (focus (with_reducible apply (@ite_ok _ _ _ _ _ _); done)); intro e2
       clear e
       rcases e2 with ⟨hc, e⟩ | ⟨hc, e⟩ <;>
       try (apply stepWith hc; (focus (with_reducible apply (h.keeps_inFuncNot); done)); intro i1))
    | (simp only [bind_assoc, pure_bind] at e)
    | (rw [bind_ok] at e
       obtain ⟨⟨x1, g1⟩, e1, e⟩ := e
       try dsimp only at e
       try (apply stepWith e1; (focus (with_reducible apply (h.keeps_inFuncNew); done)); intro f0)
       try (apply stepWith e1; (focus (with_reducible apply (h.keeps_ownedNew); done)); intro f1)
       try (apply stepWith e1; (focus (with_reducible apply (ptrVal_of_NewInst); done)); intro f2)
       first
         | (apply stepWith e1; (focus (with_reducible apply (h.keeps_NewInst); done)); clear h; intro h) | (apply stepWith e1; (focus (with_reducible apply (h.keeps_NewStore); done)); clear h; intro h) | (apply stepWith e1; (focus (with_reducible apply (h.keeps_NewTerm); done)); clear h; intro h) | (apply stepWith e1; (focus (with_reducible apply (h.keeps_NewInstAt); done)); clear h; intro h) | (apply stepWith e1; (focus (with_reducible apply (h.keeps_NewStoreAt); done)); clear h; intro h) | (apply stepWith e1; (focus (with_reducible apply (h.keeps_NewTermAt); done)); clear h; intro h) | (apply stepWith e1; (focus (with_reducible apply (h.keeps_NewBlock); done)); clear h; intro h) | (apply stepWith e1; (focus (with_reducible apply (h.keeps_NewBlockIn); done)); clear h; intro h)
         | (cases e1)
         | (refine Keeps.keeps_cutFrom h (b := g1) ?_ ?_ <;>
             first | (intro h2; clear h e1; rename' h2 => h) | (clear e; rename' e1 => e))
         | fail)
    | (split at e <;>
       try (rename_i heq
            try (apply stepWith heq; (focus (with_reducible apply (h.keeps_inFunc); done)); intro i2)
            try (apply stepWith heq; (focus (with_reducible apply (h.keeps_curFunc); done)); intro i3)
            try (first | (apply stepWith heq; (focus (with_reducible apply (h.keeps_NewInst); done)); clear h; intro h) | (apply stepWith heq; (focus (with_reducible apply (h.keeps_NewStore); done)); clear h; intro h) | (apply stepWith heq; (focus (with_reducible apply (h.keeps_NewTerm); done)); clear h; intro h) | (apply stepWith heq; (focus (with_reducible apply (h.keeps_NewInstAt); done)); clear h; intro h) | (apply stepWith heq; (focus (with_reducible apply (h.keeps_NewStoreAt); done)); clear h; intro h) | (apply stepWith heq; (focus (with_reducible apply (h.keeps_NewTermAt); done)); clear h; intro h) | (apply stepWith heq; (focus (with_reducible apply (h.keeps_NewBlock); done)); clear h; intro h) | (apply stepWith heq; (focus (with_reducible apply (h.keeps_NewBlockIn); done)); clear h; intro h) | fail)))
    | (cases e; first | done | exact Keeps.keeps_less (Keeps.keeps_ext h) | fail)
    | (dsimp only at e)
    | fail)

theorem Keeps.keeps_generateStringConcatenation {a g x g' : IRGenerator} {B : List Nat} [KExt a g x B] {left right : Value} {r : Option Value}
    (h : Keeps a g B) (e : generateStringConcatenation left right x = .ok (r, g')) : Keeps a g' B := by
  replace h : Keeps a x B := h.keeps_ext
  unfold Irgen.generateStringConcatenation at e
  try simp only [IRGenerator.NewAlloca, IRGenerator.NewLoad, IRGenerator.NewBin, IRGenerator.NewICmp, IRGenerator.NewFCmp, IRGenerator.NewGetElementPtr, IRGenerator.funcValue, NewCall_func, IRGenerator.NewCall, IRGenerator.NewZExt, IRGenerator.NewSelect, IRGenerator.NewBr, IRGenerator.NewCondBr, IRGenerator.NewRet, IRGenerator.NewUnreachable, IRGenerator.NewFunc, IRGenerator.NewGlobalDef] at e
  repeat' (first
    | (first | (revert e; with_reducible apply (Keeps.keeps_less ∘ (h.keeps_asResult)); done) | (revert e; with_reducible apply (Keeps.keeps_less ∘ (h.keeps_failWith)); done) | (revert e; with_reducible apply (Keeps.keeps_less ∘ (h.keeps_NewInst)); done) | (revert e; with_reducible apply (Keeps.keeps_less ∘ (h.keeps_NewStore)); done) | (revert e; with_reducible apply (Keeps.keeps_less ∘ (h.keeps_NewTerm)); done) | (revert e; with_reducible apply (Keeps.keeps_less ∘ (h.keeps_NewInstAt)); done) | (revert e; with_reducible apply (Keeps.keeps_less ∘ (h.keeps_NewStoreAt)); done) | (revert e; with_reducible apply (Keeps.keeps_less ∘ (h.keeps_NewTermAt)); done) | (revert e; with_reducible apply (Keeps.keeps_less ∘ (h.keeps_NewBlock)); done) | (revert e; with_reducible apply (Keeps.keeps_less ∘ (h.keeps_NewBlockIn)); done) | fail)
    | (apply stepWith e; (focus (with_reducible apply (@ite_ok _ _ _ _ _ _); done)); intro e2
       clear e
       rcases e2 with ⟨hc, e⟩ | ⟨hc, e⟩ <;>
       try (apply stepWith hc; (focus (with_reducible apply (h.keeps_inFuncNot); done)); intro i1))
    | (simp only [bind_assoc, pure_bind] at e)
    | (rw [bind_ok] at e
       obtain ⟨⟨x1, g1⟩, e1, e⟩ := e
       try dsimp only at e
       try (apply stepWith e1; (focus (with_reducible apply (h.keeps_inFuncNew); done)); intro f0)
       try (apply stepWith e1; (focus (with_reducible apply (h.keeps_ownedNew); done)); intro f1)
       try (apply stepWith e1; (focus (with_reducible apply (ptrVal_of_NewInst); done)); intro f2)
       first
         | (apply stepWith e1; (focus (with_reducible apply (h.keeps_NewInst); done)); clear h; intro h) | (apply stepWith e1; (focus (with_reducible apply (h.keeps_NewStore); done)); clear h; intro h) | (apply stepWith e1; (focus (with_reducible apply (h.keeps_NewTerm); done)); clear h; intro h) | (apply stepWith e1; (focus (with_reducible apply (h.keeps_NewInstAt); done)); clear h; intro h) | (apply stepWith e1; (focus (with_reducible apply (h.keeps_NewStoreAt); done)); clear h; intro h) | (apply stepWith e1; (focus (with_reducible apply (h.keeps_NewTermAt); done)); clear h; intro h) | (apply stepWith e1; (focus (with_reducible apply (h.keeps_NewBlock); done)); clear h; intro h) | (apply stepWith e1; (focus (with_reducible apply (h.keeps_NewBlockIn); done)); clear h; intro h)
         | (cases e1)
         | (refine Keeps.keeps_cutFrom h (b := g1) ?_ ?_ <;>
             first | (intro h2; clear h e1; rename' h2 => h) | (clear e; rename' e1 => e))
         | fail)
    | (split at e <;>
       try (rename_i heq
            try (apply stepWith heq; (focus (with_reducible apply (h.keeps_inFunc); done)); intro i2)
            try (apply stepWith heq; (focus (with_reducible apply (h.keeps_curFunc); done)); intro i3)
            try (first | (apply stepWith heq; (focus (with_reducible apply (h.keeps_getOrDeclare); done)); clear h; intro h) | (apply stepWith heq; (focus (with_reducible apply (h.keeps_NewInst); done)); clear h; intro h) | (apply stepWith heq; (focus (with_reducible apply (h.keeps_NewStore); done)); clear h; intro h) | (apply stepWith heq; (focus (with_reducible apply (h.keeps_NewTerm); done)); clear h; intro h) | (apply stepWith heq; (focus (with_reducible apply (h.keeps_NewInstAt); done)); clear h; intro h) | (apply stepWith heq; (focus (with_reducible apply (h.keeps_NewStoreAt); done)); clear h; intro h) | (apply stepWith heq; (focus (with_reducible apply (h.keeps_NewTermAt); done)); clear h; intro h) | (apply stepWith heq; (focus (with_reducible apply (h.keeps_NewBlock); done)); clear h; intro h) | (apply stepWith heq; (focus (with_reducible apply (h.keeps_NewBlockIn); done)); clear h; intro h) | fail)))
    | (cases e; first | done | exact Keeps.keeps_less (Keeps.keeps_ext h) | fail)
    | (dsimp only at e)
    | fail)

theorem Keeps.keeps_generateBoundsCheck {a g x g' : IRGenerator} {B : List Nat} [KExt a g x B] {index length : Value} {r : Unit}
    (h : Keeps a g B) (e : generateBoundsCheck index length x = .ok (r, g')) : Keeps a g' B := by
  replace h : Keeps a x B := h.keeps_ext
  unfold Irgen.generateBoundsCheck at e
  try simp only [IRGenerator.NewAlloca, IRGenerator.NewLoad, IRGenerator.NewBin, IRGenerator.NewICmp, IRGenerator.NewFCmp, IRGenerator.NewGetElementPtr, IRGenerator.funcValue, NewCall_func, IRGenerator.NewCall, IRGenerator.NewZExt, IRGenerator.NewSelect, IRGenerator.NewBr, IRGenerator.NewCondBr, IRGenerator.NewRet, IRGenerator.NewUnreachable, IRGenerator.NewFunc, IRGenerator.NewGlobalDef] at e
  repeat' (first
    | (first | (revert e; with_reducible apply (Keeps.keeps_less ∘ (h.keeps_asResult)); done) | (revert e; with_reducible apply (Keeps.keeps_less ∘ (h.keeps_failWith)); done) | (revert e; with_reducible apply (Keeps.keeps_less ∘ (h.keeps_NewInst)); done) | (revert e; with_reducible apply (Keeps.keeps_less ∘ (h.keeps_NewStore)); done) | (revert e; with_reducible apply (Keeps.keeps_less ∘ (h.keeps_NewTerm)); done) | (revert e; with_reducible apply (Keeps.keeps_less ∘ (h.keeps_NewInstAt)); done) | (revert e; with_reducible apply (Keeps.keeps_less ∘ (h.keeps_NewStoreAt)); done) | (revert e; with_reducible apply (Keeps.keeps_less ∘ (h.keeps_NewTermAt)); done) | (revert e; with_reducible apply (Keeps.keeps_less ∘ (h.keeps_NewBlock)); done) | (revert e; with_reducible apply (Keeps.keeps_less ∘ (h.keeps_NewBlockIn)); done) | fail)
    | (apply stepWith e; (focus (with_reducible apply (@ite_ok _ _ _ _ _ _); done)); intro e2
       clear e
       rcases e2 with ⟨hc, e⟩ | ⟨hc, e⟩ <;>
       try (apply stepWith hc; (focus (with_reducible apply (h.keeps_inFuncNot); done)); intro i1))
    | (simp only [bind_assoc, pure_bind] at e)
    | (rw [bind_ok] at e
       obtain ⟨⟨x1, g1⟩, e1, e⟩ := e
       try dsimp only at e
       try (apply stepWith e1; (focus (with_reducible apply (h.keeps_inFuncNew); done)); intro f0)
       try (apply stepWith e1; (focus (with_reducible apply (h.keeps_ownedNew); done)); intro f1)
       try (apply stepWith e1; (focus (with_reducible apply (ptrVal_of_NewInst); done)); intro f2)
       first
         | (apply stepWith e1; (focus (with_reducible apply (h.keeps_NewInst); done)); clear h; intro h) | (apply stepWith e1; (focus (with_reducible apply (h.keeps_NewStore); done)); clear h; intro h) | (apply stepWith e1; (focus (with_reducible apply (h.keeps_NewTerm); done)); clear h; intro h) | (apply stepWith e1; (focus (with_reducible apply (h.keeps_NewInstAt); done)); clear h; intro h) | (apply stepWith e1; (focus (with_reducible apply (h.keeps_NewStoreAt); done)); clear h; intro h) | (apply stepWith e1; (focus (with_reducible apply (h.keeps_NewTermAt); done)); clear h; intro h) | (apply stepWith e1; (focus (with_reducible apply (h.keeps_NewBlock); done)); clear h; intro h) | (apply stepWith e1; (focus (with_reducible apply (h.keeps_NewBlockIn); done)); clear h; intro h)
         | (cases e1)
         | (refine Keeps.keeps_cutFrom h (b := g1) ?_ ?_ <;>
             first | (intro h2; clear h e1; rename' h2 => h) | (clear e; rename' e1 => e))
         | fail)
    | (split at e <;>
       try (rename_i heq
            try (apply stepWith heq; (focus (with_reducible apply (h.keeps_inFunc); done)); intro i2)
            try (apply stepWith heq; (focus (with_reducible apply (h.keeps_curFunc); done)); intro i3)
            try (first | (apply stepWith heq; (focus (with_reducible apply (h.keeps_getOrDeclare); done)); clear h; intro h) | (apply stepWith heq; (focus (with_reducible apply (h.keeps_generateStringLiteral); done)); clear h; intro h) | (apply stepWith heq; (focus (with_reducible apply (h.keeps_NewInst); done)); clear h; intro h) | (apply stepWith heq; (focus (with_reducible apply (h.keeps_NewStore); done)); clear h; intro h) | (apply stepWith heq; (focus (with_reducible apply (h.keeps_NewTerm); done)); clear h; intro h) | (apply stepWith heq; (focus (with_reducible apply (h.keeps_NewInstAt); done)); clear h; intro h) | (apply stepWith heq; (focus (with_reducible apply (h.keeps_NewStoreAt); done)); clear h; intro h) | (apply stepWith heq; (focus (with_reducible apply (h.keeps_NewTermAt); done)); clear h; intro h) | (apply stepWith heq; (focus (with_reducible apply (h.keeps_NewBlock); done)); clear h; intro h) | (apply stepWith heq; (focus (with_reducible apply (h.keeps_NewBlockIn); done)); clear h; intro h) | fail)))
    | (cases e; first | done | exact Keeps.keeps_less (Keeps.keeps_ext h) | fail)
    | (dsimp only at e)
    | fail)

theorem Keeps.keeps_infixOperator {a g x g' : IRGenerator} {B : List Nat} [KExt a g x B] {leftExpr : Expression} {op : String} {left right : Value} {r : Option Value}
    (h : Keeps a g B) (e : infixOperator leftExpr op left right x = .ok (r, g')) : Keeps a g' B := by
  replace h : Keeps a x B := h.keeps_ext
  unfold Irgen.infixOperator at e
  try simp only [IRGenerator.NewAlloca, IRGenerator.NewLoad, IRGenerator.NewBin, IRGenerator.NewICmp, IRGenerator.NewFCmp, IRGenerator.NewGetElementPtr, IRGenerator.funcValue, NewCall_func, IRGenerator.NewCall, IRGenerator.NewZExt, IRGenerator.NewSelect, IRGenerator.NewBr, IRGenerator.NewCondBr, IRGenerator.NewRet, IRGenerator.NewUnreachable, IRGenerator.NewFunc, IRGenerator.NewGlobalDef] at e
  repeat' (first
    | (first | (revert e; with_reducible apply (Keeps.keeps_less ∘ (h.keeps_asResult)); done) | (revert e; with_reducible apply (Keeps.keeps_less ∘ (h.keeps_failWith)); done) | (revert e; with_reducible apply (Keeps.keeps_less ∘ (h.keeps_NewInst)); done) | (revert e; with_reducible apply (Keeps.keeps_less ∘ (h.keeps_NewStore)); done) | (revert e; with_reducible apply (Keeps.keeps_less ∘ (h.keeps_NewTerm)); done) | (revert e; with_reducible apply (Keeps.keeps_less ∘ (h.keeps_NewInstAt)); done) | (revert e; with_reducible apply (Keeps.keeps_less ∘ (h.keeps_NewStoreAt)); done) | (revert e; with_reducible apply (Keeps.keeps_less ∘ (h.keeps_NewTermAt)); done) | (revert e; with_reducible apply (Keeps.keeps_less ∘ (h.keeps_NewBlock)); done) | (revert e; with_reducible apply (Keeps.keeps_less ∘ (h.keeps_NewBlockIn)); done) | (revert e; with_reducible apply (Keeps.keeps_less ∘ (h.keeps_generateStringConcatenation)); done) | fail)
    | (apply stepWith e; (focus (with_reducible apply (@ite_ok _ _ _ _ _ _); done)); intro e2
       clear e
       rcases e2 with ⟨hc, e⟩ | ⟨hc, e⟩ <;>
       try (apply stepWith hc; (focus (with_reducible apply (h.keeps_inFuncNot); done)); intro i1))
    | (simp only [bind_assoc, pure_bind] at e)
    | (rw [bind_ok] at e
       obtain ⟨⟨x1, g1⟩, e1, e⟩ := e
       try dsimp only at e
       try (apply stepWith e1; (focus (with_reducible apply (h.keeps_inFuncNew); done)); intro f0)
       try (apply stepWith e1; (focus (with_reducible apply (h.keeps_ownedNew); done)); intro f1)
       try (apply stepWith e1; (focus (with_reducible apply (ptrVal_of_NewInst); done)); intro f2)
       first
         | (apply stepWith e1; (focus (with_reducible apply (h.keeps_NewInst); done)); clear h; intro h) | (apply stepWith e1; (focus (with_reducible apply (h.keeps_NewStore); done)); clear h; intro h) | (apply stepWith e1; (focus (with_reducible apply (h.keeps_NewTerm); done)); clear h; intro h) | (apply stepWith e1; (focus (with_reducible apply (h.keeps_NewInstAt); done)); clear h; intro h) | (apply stepWith e1; (focus (with_reducible apply (h.keeps_NewStoreAt); done)); clear h; intro h) | (apply stepWith e1; (focus (with_reducible apply (h.keeps_NewTermAt); done)); clear h; intro h) | (apply stepWith e1; (focus (with_reducible apply (h.keeps_NewBlock); done)); clear h; intro h) | (apply stepWith e1; (focus (with_reducible apply (h.keeps_NewBlockIn); done)); clear h; intro h) | (apply stepWith e1; (focus (with_reducible apply (h.keeps_generateStringConcatenation); done)); clear h; intro h)
         | (cases e1)
         | (refine Keeps.keeps_cutFrom h (b := g1) ?_ ?_ <;>
             first | (intro h2; clear h e1; rename' h2 => h) | (clear e; rename' e1 => e))
         | fail)
    | (split at e <;>
       try (rename_i heq
            try (apply stepWith heq; (focus (with_reducible apply (h.keeps_inFunc); done)); intro i2)
            try (apply stepWith heq; (focus (with_reducible apply (h.keeps_curFunc); done)); intro i3)
            try (first | (apply stepWith heq; (focus (with_reducible apply (h.keeps_NewInst); done)); clear h; intro h) | (apply stepWith heq; (focus (with_reducible apply (h.keeps_NewStore); done)); clear h; intro h) | (apply stepWith heq; (focus (with_reducible apply (h.keeps_NewTerm); done)); clear h; intro h) | (apply stepWith heq; (focus (with_reducible apply (h.keeps_NewInstAt); done)); clear h; intro h) | (apply stepWith heq; (focus (with_reducible apply (h.keeps_NewStoreAt); done)); clear h; intro h) | (apply stepWith heq; (focus (with_reducible apply (h.keeps_NewTermAt); done)); clear h; intro h) | (apply stepWith heq; (focus (with_reducible apply (h.keeps_NewBlock); done)); clear h; intro h) | (apply stepWith heq; (focus (with_reducible apply (h.keeps_NewBlockIn); done)); clear h; intro h) | (apply stepWith heq; (focus (with_reducible apply (h.keeps_generateStringConcatenation); done)); clear h; intro h) | fail)))
    | (cases e; first | done | exact Keeps.keeps_less (Keeps.keeps_ext h) | fail)
    | (dsimp only at e)
    | fail)

theorem Keeps.keeps_printfArgument {a g x g' : IRGenerator} {B : List Nat} [KExt a g x B] {argVal : Value} {r : String × Value}
    (h : Keeps a g B) (e : printfArgument argVal x = .ok (r, g')) : Keeps a g' B := by
  replace h : Keeps a x B := h.keeps_ext
  unfold Irgen.printfArgument at e
  try simp only [IRGenerator.NewAlloca, IRGenerator.NewLoad, IRGenerator.NewBin, IRGenerator.NewICmp, IRGenerator.NewFCmp, IRGenerator.NewGetElementPtr, IRGenerator.funcValue, NewCall_func, IRGenerator.NewCall, IRGenerator.NewZExt, IRGenerator.NewSelect, IRGenerator.NewBr, IRGenerator.NewCondBr, IRGenerator.NewRet, IRGenerator.NewUnreachable, IRGenerator.NewFunc, IRGenerator.NewGlobalDef] at e
  repeat' (first
    | (first | (revert e; with_reducible apply (Keeps.keeps_less ∘ (h.keeps_asResult)); done) | (revert e; with_reducible apply (Keeps.keeps_less ∘ (h.keeps_failWith)); done) | (revert e; with_reducible apply (Keeps.keeps_less ∘ (h.keeps_NewInst)); done) | (revert e; with_reducible apply (Keeps.keeps_less ∘ (h.keeps_NewStore)); done) | (revert e; with_reducible apply (Keeps.keeps_less ∘ (h.keeps_NewTerm)); done) | (revert e; with_reducible apply (Keeps.keeps_less ∘ (h.keeps_NewInstAt)); done) | (revert e; with_reducible apply (Keeps.keeps_less ∘ (h.keeps_NewStoreAt)); done) | (revert e; with_reducible apply (Keeps.keeps_less ∘ (h.keeps_NewTermAt)); done) | (revert e; with_reducible apply (Keeps.keeps_less ∘ (h.keeps_NewBlock)); done) | (revert e; with_reducible apply (Keeps.keeps_less ∘ (h.keeps_NewBlockIn)); done) | fail)
    | (apply stepWith e; (focus (with_reducible apply (@ite_ok _ _ _ _ _ _); done)); intro e2
       clear e
       rcases e2 with ⟨hc, e⟩ | ⟨hc, e⟩ <;>
       try (apply stepWith hc; (focus (with_reducible apply (h.keeps_inFuncNot); done)); intro i1))
    | (simp only [bind_assoc, pure_bind] at e)
    | (rw [bind_ok] at e
       obtain ⟨⟨x1, g1⟩, e1, e⟩ := e
       try dsimp only at e
       try (apply stepWith e1; (focus (with_reducible apply (h.keeps_inFuncNew); done)); intro f0)
       try (apply stepWith e1; (focus (with_reducible apply (h.keeps_ownedNew); done)); intro f1)
       try (apply stepWith e1; (focus (with_reducible apply (ptrVal_of_NewInst); done)); intro f2)
       first
         | (apply stepWith e1; (focus (with_reducible apply (h.keeps_NewInst); done)); clear h; intro h) | (apply stepWith e1; (focus (with_reducible apply (h.keeps_NewStore); done)); clear h; intro h) | (apply stepWith e1; (focus (with_reducible apply (h.keeps_NewTerm); done)); clear h; intro h) | (apply stepWith e1; (focus (with_reducible apply (h.keeps_NewInstAt); done)); clear h; intro h) | (apply stepWith e1; (focus (with_reducible apply (h.keeps_NewStoreAt); done)); clear h; intro h) | (apply stepWith e1; (focus (with_reducible apply (h.keeps_NewTermAt); done)); clear h; intro h) | (apply stepWith e1; (focus (with_reducible apply (h.keeps_NewBlock); done)); clear h; intro h) | (apply stepWith e1; (focus (with_reducible apply (h.keeps_NewBlockIn); done)); clear h; intro h)
         | (cases e1)
         | (refine Keeps.keeps_cutFrom h (b := g1) ?_ ?_ <;>
             first | (intro h2; clear h e1; rename' h2 => h) | (clear e; rename' e1 => e))
         | fail)
    | (split at e <;>
       try (rename_i heq
            try (apply stepWith heq; (focus (with_reducible apply (h.keeps_inFunc); done)); intro i2)
            try (apply stepWith heq; (focus (with_reducible apply (h.keeps_curFunc); done)); intro i3)
            try (first | (apply stepWith heq; (focus (with_reducible apply (h.keeps_NewInst); done)); clear h; intro h) | (apply stepWith heq; (focus (with_reducible apply (h.keeps_NewStore); done)); clear h; intro h) | (apply stepWith heq; (focus (with_reducible apply (h.keeps_NewTerm); done)); clear h; intro h) | (apply stepWith heq; (focus (with_reducible apply (h.keeps_NewInstAt); done)); clear h; intro h) | (apply stepWith heq; (focus (with_reducible apply (h.keeps_NewStoreAt); done)); clear h; intro h) | (apply stepWith heq; (focus (with_reducible apply (h.keeps_NewTermAt); done)); clear h; intro h) | (apply stepWith heq; (focus (with_reducible apply (h.keeps_NewBlock); done)); clear h; intro h) | (apply stepWith heq; (focus (with_reducible apply (h.keeps_NewBlockIn); done)); clear h; intro h) | fail)))
    | (cases e; first | done | exact Keeps.keeps_less (Keeps.keeps_ext h) | fail)
    | (dsimp only at e)
    | fail)

theorem Keeps.keeps_brIfOpen {a g x g' : IRGenerator} {B : List Nat} [KExt a g x B] {target : Nat} {r : Unit}
    (h : Keeps a g B) (e : x.brIfOpen target = .ok (r, g')) : Keeps a g' B := by
  replace h : Keeps a x B := h.keeps_ext
  unfold Irgen.IRGenerator.brIfOpen at e
  try simp only [IRGenerator.NewAlloca, IRGenerator.NewLoad, IRGenerator.NewBin, IRGenerator.NewICmp, IRGenerator.NewFCmp, IRGenerator.NewGetElementPtr, IRGenerator.funcValue, NewCall_func, IRGenerator.NewCall, IRGenerator.NewZExt, IRGenerator.NewSelect, IRGenerator.NewBr, IRGenerator.NewCondBr, IRGenerator.NewRet, IRGenerator.NewUnreachable, IRGenerator.NewFunc, IRGenerator.NewGlobalDef] at e
  repeat' (first
    | (first | (revert e; with_reducible apply (Keeps.keeps_less ∘ (h.keeps_asResult)); done) | (revert e; with_reducible apply (Keeps.keeps_less ∘ (h.keeps_failWith)); done) | (revert e; with_reducible apply (Keeps.keeps_less ∘ (h.keeps_NewInst)); done) | (revert e; with_reducible apply (Keeps.keeps_less ∘ (h.keeps_NewStore)); done) | (revert e; with_reducible apply (Keeps.keeps_less ∘ (h.keeps_NewTerm)); done) | (revert e; with_reducible apply (Keeps.keeps_less ∘ (h.keeps_NewInstAt)); done) | (revert e; with_reducible apply (Keeps.keeps_less ∘ (h.keeps_NewStoreAt)); done) | (revert e; with_reducible apply (Keeps.keeps_less ∘ (h.keeps_NewTermAt)); done) | (revert e; with_reducible apply (Keeps.keeps_less ∘ (h.keeps_NewBlock)); done) | (revert e; with_reducible apply (Keeps.keeps_less ∘ (h.keeps_NewBlockIn)); done) | fail)
    | (apply stepWith e; (focus (with_reducible apply (@ite_ok _ _ _ _ _ _); done)); intro e2
       clear e
       rcases e2 with ⟨hc, e⟩ | ⟨hc, e⟩ <;>
       try (apply stepWith hc; (focus (with_reducible apply (h.keeps_inFuncNot); done)); intro i1))
    | (simp only [bind_assoc, pure_bind] at e)
    | (rw [bind_ok] at e
       obtain ⟨⟨x1, g1⟩, e1, e⟩ := e
       try dsimp only at e
       try (apply stepWith e1; (focus (with_reducible apply (h.keeps_inFuncNew); done)); intro f0)
       try (apply stepWith e1; (focus (with_reducible apply (h.keeps_ownedNew); done)); intro f1)
       try (apply stepWith e1; (focus (with_reducible apply (ptrVal_of_NewInst); done)); intro f2)
       first
         | (apply stepWith e1; (focus (with_reducible apply (h.keeps_NewInst); done)); clear h; intro h) | (apply stepWith e1; (focus (with_reducible apply (h.keeps_NewStore); done)); clear h; intro h) | (apply stepWith e1; (focus (with_reducible apply (h.keeps_NewTerm); done)); clear h; intro h) | (apply stepWith e1; (focus (with_reducible apply (h.keeps_NewInstAt); done)); clear h; intro h) | (apply stepWith e1; (focus (with_reducible apply (h.keeps_NewStoreAt); done)); clear h; intro h) | (apply stepWith e1; (focus (with_reducible apply (h.keeps_NewTermAt); done)); clear h; intro h) | (apply stepWith e1; (focus (with_reducible apply (h.keeps_NewBlock); done)); clear h; intro h) | (apply stepWith e1; (focus (with_reducible apply (h.keeps_NewBlockIn); done)); clear h; intro h)
         | (cases e1)
         | (refine Keeps.keeps_cutFrom h (b := g1) ?_ ?_ <;>
             first | (intro h2; clear h e1; rename' h2 => h) | (clear e; rename' e1 => e))
         | fail)
    | (split at e <;>
       try (rename_i heq
            try (apply stepWith heq; (focus (with_reducible apply (h.keeps_inFunc); done)); intro i2)
            try (apply stepWith heq; (focus (with_reducible apply (h.keeps_curFunc); done)); intro i3)
            try (first | (apply stepWith heq; (focus (with_reducible apply (h.keeps_NewInst); done)); clear h; intro h) | (apply stepWith heq; (focus (with_reducible apply (h.keeps_NewStore); done)); clear h; intro h) | (apply stepWith heq; (focus (with_reducible apply (h.keeps_NewTerm); done)); clear h; intro h) | (apply stepWith heq; (focus (with_reducible apply (h.keeps_NewInstAt); done)); clear h; intro h) | (apply stepWith heq; (focus (with_reducible apply (h.keeps_NewStoreAt); done)); clear h; intro h) | (apply stepWith heq; (focus (with_reducible apply (h.keeps_NewTermAt); done)); clear h; intro h) | (apply stepWith heq; (focus (with_reducible apply (h.keeps_NewBlock); done)); clear h; intro h) | (apply stepWith heq; (focus (with_reducible apply (h.keeps_NewBlockIn); done)); clear h; intro h) | fail)))
    | (cases e; first | done | exact Keeps.keeps_less (Keeps.keeps_ext h) | fail)
    | (dsimp only at e)
    | fail)

theorem Keeps.keeps_indexAccess {a g x g' : IRGenerator} {B : List Nat} [KExt a g x B] {arrayValue indexValue : Value} {r : Option Value}
    (h : Keeps a g B) (e : indexAccess arrayValue indexValue x = .ok (r, g')) : Keeps a g' B := by
  replace h : Keeps a x B := h.keeps_ext
  unfold Irgen.indexAccess at e
  try simp only [IRGenerator.NewAlloca, IRGenerator.NewLoad, IRGenerator.NewBin, IRGenerator.NewICmp, IRGenerator.NewFCmp, IRGenerator.NewGetElementPtr, IRGenerator.funcValue, NewCall_func, IRGenerator.NewCall, IRGenerator.NewZExt, IRGenerator.NewSelect, IRGenerator.NewBr, IRGenerator.NewCondBr, IRGenerator.NewRet, IRGenerator.NewUnreachable, IRGenerator.NewFunc, IRGenerator.NewGlobalDef] at e
  repeat' (first
    | (first | (revert e; with_reducible apply (Keeps.keeps_less ∘ (h.keeps_asResult)); done) | (revert e; with_reducible apply (Keeps.keeps_less ∘ (h.keeps_failWith)); done) | (revert e; with_reducible apply (Keeps.keeps_less ∘ (h.keeps_NewInst)); done) | (revert e; with_reducible apply (Keeps.keeps_less ∘ (h.keeps_NewStore)); done) | (revert e; with_reducible apply (Keeps.keeps_less ∘ (h.keeps_NewTerm)); done) | (revert e; with_reducible apply (Keeps.keeps_less ∘ (h.keeps_NewInstAt)); done) | (revert e; with_reducible apply (Keeps.keeps_less ∘ (h.keeps_NewStoreAt)); done) | (revert e; with_reducible apply (Keeps.keeps_less ∘ (h.keeps_NewTermAt)); done) | (revert e; with_reducible apply (Keeps.keeps_less ∘ (h.keeps_NewBlock)); done) | (revert e; with_reducible apply (Keeps.keeps_less ∘ (h.keeps_NewBlockIn)); done) | (revert e; with_reducible apply (Keeps.keeps_less ∘ (h.keeps_generateBoundsCheck)); done) | fail)
    | (apply stepWith e; (focus (with_reducible apply (@ite_ok _ _ _ _ _ _); done)); intro e2
       clear e
       rcases e2 with ⟨hc, e⟩ | ⟨hc, e⟩ <;>
       try (apply stepWith hc; (focus (with_reducible apply (h.keeps_inFuncNot); done)); intro i1))
    | (simp only [bind_assoc, pure_bind] at e)
    | (rw [bind_ok] at e
       obtain ⟨⟨x1, g1⟩, e1, e⟩ := e
       try dsimp only at e
       try (apply stepWith e1; (focus (with_reducible apply (h.keeps_inFuncNew); done)); intro f0)
       try (apply stepWith e1; (focus (with_reducible apply (h.keeps_ownedNew); done)); intro f1)
       try (apply stepWith e1; (focus (with_reducible apply (ptrVal_of_NewInst); done)); intro f2)
       first
         | (apply stepWith e1; (focus (with_reducible apply (h.keeps_NewInst); done)); clear h; intro h) | (apply stepWith e1; (focus (with_reducible apply (h.keeps_NewStore); done)); clear h; intro h) | (apply stepWith e1; (focus (with_reducible apply (h.keeps_NewTerm); done)); clear h; intro h) | (apply stepWith e1; (focus (with_reducible apply (h.keeps_NewInstAt); done)); clear h; intro h) | (apply stepWith e1; (focus (with_reducible apply (h.keeps_NewStoreAt); done)); clear h; intro h) | (apply stepWith e1; (focus (with_reducible apply (h.keeps_NewTermAt); done)); clear h; intro h) | (apply stepWith e1; (focus (with_reducible apply (h.keeps_NewBlock); done)); clear h; intro h) | (apply stepWith e1; (focus (with_reducible apply (h.keeps_NewBlockIn); done)); clear h; intro h) | (apply stepWith e1; (focus (with_reducible apply (h.keeps_generateBoundsCheck); done)); clear h; intro h)
         | (cases e1)
         | (refine Keeps.keeps_cutFrom h (b := g1) ?_ ?_ <;>
             first | (intro h2; clear h e1; rename' h2 => h) | (clear e; rename' e1 => e))
         | fail)
    | (split at e <;>
       try (rename_i heq
            try (apply stepWith heq; (focus (with_reducible apply (h.keeps_inFunc); done)); intro i2)
            try (apply stepWith heq; (focus (with_reducible apply (h.keeps_curFunc); done)); intro i3)
            try (first | (apply stepWith heq; (focus (with_reducible apply (h.keeps_NewInst); done)); clear h; intro h) | (apply stepWith heq; (focus (with_reducible apply (h.keeps_NewStore); done)); clear h; intro h) | (apply stepWith heq; (focus (with_reducible apply (h.keeps_NewTerm); done)); clear h; intro h) | (apply stepWith heq; (focus (with_reducible apply (h.keeps_NewInstAt); done)); clear h; intro h) | (apply stepWith heq; (focus (with_reducible apply (h.keeps_NewStoreAt); done)); clear h; intro h) | (apply stepWith heq; (focus (with_reducible apply (h.keeps_NewTermAt); done)); clear h; intro h) | (apply stepWith heq; (focus (with_reducible apply (h.keeps_NewBlock); done)); clear h; intro h) | (apply stepWith heq; (focus (with_reducible apply (h.keeps_NewBlockIn); done)); clear h; intro h) | (apply stepWith heq; (focus (with_reducible apply (h.keeps_generateBoundsCheck); done)); clear h; intro h) | fail)))
    | (cases e; first | done | exact Keeps.keeps_less (Keeps.keeps_ext h) | fail)
    | (dsimp only at e)
    | fail)

theorem Keeps.keeps_lenOrCap {a g x g' : IRGenerator} {B : List Nat} [KExt a g x B] {field : Int} {what : String} {arg : Value} {r : Option Value}
    (h : Keeps a g B) (e : lenOrCap field what arg x = .ok (r, g')) : Keeps a g' B := by
  replace h : Keeps a x B := h.keeps_ext
  unfold Irgen.lenOrCap at e
  try simp only [IRGenerator.NewAlloca, IRGenerator.NewLoad, IRGenerator.NewBin, IRGenerator.NewICmp, IRGenerator.NewFCmp, IRGenerator.NewGetElementPtr, IRGenerator.funcValue, NewCall_func, IRGenerator.NewCall, IRGenerator.NewZExt, IRGenerator.NewSelect, IRGenerator.NewBr, IRGenerator.NewCondBr, IRGenerator.NewRet, IRGenerator.NewUnreachable, IRGenerator.NewFunc, IRGenerator.NewGlobalDef] at e
  repeat' (first
    | (first | (revert e; with_reducible apply (Keeps.keeps_less ∘ (h.keeps_asResult)); done) | (revert e; with_reducible apply (Keeps.keeps_less ∘ (h.keeps_failWith)); done) | (revert e; with_reducible apply (Keeps.keeps_less ∘ (h.keeps_NewInst)); done) | (revert e; with_reducible apply (Keeps.keeps_less ∘ (h.keeps_NewStore)); done) | (revert e; with_reducible apply (Keeps.keeps_less ∘ (h.keeps_NewTerm)); done) | (revert e; with_reducible apply (Keeps.keeps_less ∘ (h.keeps_NewInstAt)); done) | (revert e; with_reducible apply (Keeps.keeps_less ∘ (h.keeps_NewStoreAt)); done) | (revert e; with_reducible apply (Keeps.keeps_less ∘ (h.keeps_NewTermAt)); done) | (revert e; with_reducible apply (Keeps.keeps_less ∘ (h.keeps_NewBlock)); done) | (revert e; with_reducible apply (Keeps.keeps_less ∘ (h.keeps_NewBlockIn)); done) | fail)
    | (apply stepWith e; (focus (with_reducible apply (@ite_ok _ _ _ _ _ _); done)); intro e2
       clear e
       rcases e2 with ⟨hc, e⟩ | ⟨hc, e⟩ <;>
       try (apply stepWith hc; (focus (with_reducible apply (h.keeps_inFuncNot); done)); intro i1))
    | (simp only [bind_assoc, pure_bind] at e)
    | (rw [bind_ok] at e
       obtain ⟨⟨x1, g1⟩, e1, e⟩ := e
       try dsimp only at e
       try (apply stepWith e1; (focus (with_reducible apply (h.keeps_inFuncNew); done)); intro f0)
       try (apply stepWith e1; (focus (with_reducible apply (h.keeps_ownedNew); done)); intro f1)
       try (apply stepWith e1; (focus (with_reducible apply (ptrVal_of_NewInst); done)); intro f2)
       first
         | (apply stepWith e1; (focus (with_reducible apply (h.keeps_NewInst); done)); clear h; intro h) | (apply stepWith e1; (focus (with_reducible apply (h.keeps_NewStore); done)); clear h; intro h) | (apply stepWith e1; (focus (with_reducible apply (h.keeps_NewTerm); done)); clear h; intro h) | (apply stepWith e1; (focus (with_reducible apply (h.keeps_NewInstAt); done)); clear h; intro h) | (apply stepWith e1; (focus (with_reducible apply (h.keeps_NewStoreAt); done)); clear h; intro h) | (apply stepWith e1; (focus (with_reducible apply (h.keeps_NewTermAt); done)); clear h; intro h) | (apply stepWith e1; (focus (with_reducible apply (h.keeps_NewBlock); done)); clear h; intro h) | (apply stepWith e1; (focus (with_reducible apply (h.keeps_NewBlockIn); done)); clear h; intro h)
         | (cases e1)
         | (refine Keeps.keeps_cutFrom h (b := g1) ?_ ?_ <;>
             first | (intro h2; clear h e1; rename' h2 => h) | (clear e; rename' e1 => e))
         | fail)
    | (split at e <;>
       try (rename_i heq
            try (apply stepWith heq; (focus (with_reducible apply (h.keeps_inFunc); done)); intro i2)
            try (apply stepWith heq; (focus (with_reducible apply (h.keeps_curFunc); done)); intro i3)
            try (first | (apply stepWith heq; (focus (with_reducible apply (h.keeps_NewInst); done)); clear h; intro h) | (apply stepWith heq; (focus (with_reducible apply (h.keeps_NewStore); done)); clear h; intro h) | (apply stepWith heq; (focus (with_reducible apply (h.keeps_NewTerm); done)); clear h; intro h) | (apply stepWith heq; (focus (with_reducible apply (h.keeps_NewInstAt); done)); clear h; intro h) | (apply stepWith heq; (focus (with_reducible apply (h.keeps_NewStoreAt); done)); clear h; intro h) | (apply stepWith heq; (focus (with_reducible apply (h.keeps_NewTermAt); done)); clear h; intro h) | (apply stepWith heq; (focus (with_reducible apply (h.keeps_NewBlock); done)); clear h; intro h) | (apply stepWith heq; (focus (with_reducible apply (h.keeps_NewBlockIn); done)); clear h; intro h) | fail)))
    | (cases e; first | done | exact Keeps.keeps_less (Keeps.keeps_ext h) | fail)
    | (dsimp only at e)
    | fail)

theorem Keeps.keeps_appendElement {a g x g' : IRGenerator} {B : List Nat} [KExt a g x B] {i : Nat} {elementVal currentLen sliceArg : Value} {structType elementType : Ty} {r : Unit}
    (h : Keeps a g B) (e : appendElement i elementVal currentLen sliceArg structType elementType x = .ok (r, g')) : Keeps a g' B := by
  replace h : Keeps a x B := h.keeps_ext
  unfold Irgen.appendElement at e
  try simp only [IRGenerator.NewAlloca, IRGenerator.NewLoad, IRGenerator.NewBin, IRGenerator.NewICmp, IRGenerator.NewFCmp, IRGenerator.NewGetElementPtr, IRGenerator.funcValue, NewCall_func, IRGenerator.NewCall, IRGenerator.NewZExt, IRGenerator.NewSelect, IRGenerator.NewBr, IRGenerator.NewCondBr, IRGenerator.NewRet, IRGenerator.NewUnreachable, IRGenerator.NewFunc, IRGenerator.NewGlobalDef] at e
  repeat' (first
    | (first | (revert e; with_reducible apply (Keeps.keeps_less ∘ (h.keeps_asResult)); done) | (revert e; with_reducible apply (Keeps.keeps_less ∘ (h.keeps_failWith)); done) | (revert e; with_reducible apply (Keeps.keeps_less ∘ (h.keeps_NewInst)); done) | (revert e; with_reducible apply (Keeps.keeps_less ∘ (h.keeps_NewStore)); done) | (revert e; with_reducible apply (Keeps.keeps_less ∘ (h.keeps_NewTerm)); done) | (revert e; with_reducible apply (Keeps.keeps_less ∘ (h.keeps_NewInstAt)); done) | (revert e; with_reducible apply (Keeps.keeps_less ∘ (h.keeps_NewStoreAt)); done) | (revert e; with_reducible apply (Keeps.keeps_less ∘ (h.keeps_NewTermAt)); done) | (revert e; with_reducible apply (Keeps.keeps_less ∘ (h.keeps_NewBlock)); done) | (revert e; with_reducible apply (Keeps.keeps_less ∘ (h.keeps_NewBlockIn)); done) | fail)
    | (apply stepWith e; (focus (with_reducible apply (@ite_ok _ _ _ _ _ _); done)); intro e2
       clear e
       rcases e2 with ⟨hc, e⟩ | ⟨hc, e⟩ <;>
       try (apply stepWith hc; (focus (with_reducible apply (h.keeps_inFuncNot); done)); intro i1))
    | (simp only [bind_assoc, pure_bind] at e)
    | (rw [bind_ok] at e
       obtain ⟨⟨x1, g1⟩, e1, e⟩ := e
       try dsimp only at e
       try (apply stepWith e1; (focus (with_reducible apply (h.keeps_inFuncNew); done)); intro f0)
       try (apply stepWith e1; (focus (with_reducible apply (h.keeps_ownedNew); done)); intro f1)
       try (apply stepWith e1; (focus (with_reducible apply (ptrVal_of_NewInst); done)); intro f2)
       first
         | (apply stepWith e1; (focus (with_reducible apply (h.keeps_NewInst); done)); clear h; intro h) | (apply stepWith e1; (focus (with_reducible apply (h.keeps_NewStore); done)); clear h; intro h) | (apply stepWith e1; (focus (with_reducible apply (h.keeps_NewTerm); done)); clear h; intro h) | (apply stepWith e1; (focus (with_reducible apply (h.keeps_NewInstAt); done)); clear h; intro h) | (apply stepWith e1; (focus (with_reducible apply (h.keeps_NewStoreAt); done)); clear h; intro h) | (apply stepWith e1; (focus (with_reducible apply (h.keeps_NewTermAt); done)); clear h; intro h) | (apply stepWith e1; (focus (with_reducible apply (h.keeps_NewBlock); done)); clear h; intro h) | (apply stepWith e1; (focus (with_reducible apply (h.keeps_NewBlockIn); done)); clear h; intro h)
         | (cases e1)
         | (refine Keeps.keeps_cutFrom h (b := g1) ?_ ?_ <;>
             first | (intro h2; clear h e1; rename' h2 => h) | (clear e; rename' e1 => e))
         | fail)
    | (split at e <;>
       try (rename_i heq
            try (apply stepWith heq; (focus (with_reducible apply (h.keeps_inFunc); done)); intro i2)
            try (apply stepWith heq; (focus (with_reducible apply (h.keeps_curFunc); done)); intro i3)
            try (first | (apply stepWith heq; (focus (with_reducible apply (h.keeps_NewInst); done)); clear h; intro h) | (apply stepWith heq; (focus (with_reducible apply (h.keeps_NewStore); done)); clear h; intro h) | (apply stepWith heq; (focus (with_reducible apply (h.keeps_NewTerm); done)); clear h; intro h) | (apply stepWith heq; (focus (with_reducible apply (h.keeps_NewInstAt); done)); clear h; intro h) | (apply stepWith heq; (focus (with_reducible apply (h.keeps_NewStoreAt); done)); clear h; intro h) | (apply stepWith heq; (focus (with_reducible apply (h.keeps_NewTermAt); done)); clear h; intro h) | (apply stepWith heq; (focus (with_reducible apply (h.keeps_NewBlock); done)); clear h; intro h) | (apply stepWith heq; (focus (with_reducible apply (h.keeps_NewBlockIn); done)); clear h; intro h) | fail)))
    | (cases e; first | done | exact Keeps.keeps_less (Keeps.keeps_ext h) | fail)
    | (dsimp only at e)
    | fail)

theorem Keeps.keeps_appendPrologue {a g x g' : IRGenerator} {B : List Nat} [KExt a g x B] {count : Nat} {sliceArg : Value} {structType : Ty} {r : Value × Value × Value × Nat}
    (h : Keeps a g B) (e : appendPrologue count sliceArg structType x = .ok (r, g')) : Keeps a g' B := by
  replace h : Keeps a x B := h.keeps_ext
  unfold Irgen.appendPrologue at e
  try simp only [IRGenerator.NewAlloca, IRGenerator.NewLoad, IRGenerator.NewBin, IRGenerator.NewICmp, IRGenerator.NewFCmp, IRGenerator.NewGetElementPtr, IRGenerator.funcValue, NewCall_func, IRGenerator.NewCall, IRGenerator.NewZExt, IRGenerator.NewSelect, IRGenerator.NewBr, IRGenerator.NewCondBr, IRGenerator.NewRet, IRGenerator.NewUnreachable, IRGenerator.NewFunc, IRGenerator.NewGlobalDef] at e
  repeat' (first
    | (first | (revert e; with_reducible apply (Keeps.keeps_less ∘ (h.keeps_asResult)); done) | (revert e; with_reducible apply (Keeps.keeps_less ∘ (h.keeps_failWith)); done) | (revert e; with_reducible apply (Keeps.keeps_less ∘ (h.keeps_NewInst)); done) | (revert e; with_reducible apply (Keeps.keeps_less ∘ (h.keeps_NewStore)); done) | (revert e; with_reducible apply (Keeps.keeps_less ∘ (h.keeps_NewTerm)); done) | (revert e; with_reducible apply (Keeps.keeps_less ∘ (h.keeps_NewInstAt)); done) | (revert e; with_reducible apply (Keeps.keeps_less ∘ (h.keeps_NewStoreAt)); done) | (revert e; with_reducible apply (Keeps.keeps_less ∘ (h.keeps_NewTermAt)); done) | (revert e; with_reducible apply (Keeps.keeps_less ∘ (h.keeps_NewBlock)); done) | (revert e; with_reducible apply (Keeps.keeps_less ∘ (h.keeps_NewBlockIn)); done) | fail)
    | (apply stepWith e; (focus (with_reducible apply (@ite_ok _ _ _ _ _ _); done)); intro e2
       clear e
       rcases e2 with ⟨hc, e⟩ | ⟨hc, e⟩ <;>
       try (apply stepWith hc; (focus (with_reducible apply (h.keeps_inFuncNot); done)); intro i1))
    | (simp only [bind_assoc, pure_bind] at e)
    | (rw [bind_ok] at e
       obtain ⟨⟨x1, g1⟩, e1, e⟩ := e
       try dsimp only at e
       try (apply stepWith e1; (focus (with_reducible apply (h.keeps_inFuncNew); done)); intro f0)
       try (apply stepWith e1; (focus (with_reducible apply (h.keeps_ownedNew); done)); intro f1)
       try (apply stepWith e1; (focus (with_reducible apply (ptrVal_of_NewInst); done)); intro f2)
       first
         | (apply stepWith e1; (focus (with_reducible apply (h.keeps_NewInst); done)); clear h; intro h) | (apply stepWith e1; (focus (with_reducible apply (h.keeps_NewStore); done)); clear h; intro h) | (apply stepWith e1; (focus (with_reducible apply (h.keeps_NewTerm); done)); clear h; intro h) | (apply stepWith e1; (focus (with_reducible apply (h.keeps_NewInstAt); done)); clear h; intro h) | (apply stepWith e1; (focus (with_reducible apply (h.keeps_NewStoreAt); done)); clear h; intro h) | (apply stepWith e1; (focus (with_reducible apply (h.keeps_NewTermAt); done)); clear h; intro h) | (apply stepWith e1; (focus (with_reducible apply (h.keeps_NewBlock); done)); clear h; intro h) | (apply stepWith e1; (focus (with_reducible apply (h.keeps_NewBlockIn); done)); clear h; intro h)
         | (cases e1)
         | (refine Keeps.keeps_cutFrom h (b := g1) ?_ ?_ <;>
             first | (intro h2; clear h e1; rename' h2 => h) | (clear e; rename' e1 => e))
         | fail)
    | (split at e <;>
       try (rename_i heq
            try (apply stepWith heq; (focus (with_reducible apply (h.keeps_inFunc); done)); intro i2)
            try (apply stepWith heq; (focus (with_reducible apply (h.keeps_curFunc); done)); intro i3)
            try (first | (apply stepWith heq; (focus (with_reducible apply (h.keeps_NewInst); done)); clear h; intro h) | (apply stepWith heq; (focus (with_reducible apply (h.keeps_NewStore); done)); clear h; intro h) | (apply stepWith heq; (focus (with_reducible apply (h.keeps_NewTerm); done)); clear h; intro h) | (apply stepWith heq; (focus (with_reducible apply (h.keeps_NewInstAt); done)); clear h; intro h) | (apply stepWith heq; (focus (with_reducible apply (h.keeps_NewStoreAt); done)); clear h; intro h) | (apply stepWith heq; (focus (with_reducible apply (h.keeps_NewTermAt); done)); clear h; intro h) | (apply stepWith heq; (focus (with_reducible apply (h.keeps_NewBlock); done)); clear h; intro h) | (apply stepWith heq; (focus (with_reducible apply (h.keeps_NewBlockIn); done)); clear h; intro h) | fail)))
    | (cases e; first | done | exact Keeps.keeps_less (Keeps.keeps_ext h) | fail)
    | (dsimp only at e)
    | fail)

theorem Keeps.keeps_appendEpilogue {a g x g' : IRGenerator} {B : List Nat} [KExt a g x B] {lenPtr newLen : Value} {endBlock : Nat} [Owned a endBlock] [InFunc a] [Mem endBlock B] {r : Unit}
    (h : Keeps a g B) (e : appendEpilogue lenPtr newLen endBlock x = .ok (r, g')) : Keeps a g' B := by
  replace h : Keeps a x B := h.keeps_ext
  unfold Irgen.appendEpilogue at e
  try simp only [IRGenerator.NewAlloca, IRGenerator.NewLoad, IRGenerator.NewBin, IRGenerator.NewICmp, IRGenerator.NewFCmp, IRGenerator.NewGetElementPtr, IRGenerator.funcValue, NewCall_func, IRGenerator.NewCall, IRGenerator.NewZExt, IRGenerator.NewSelect, IRGenerator.NewBr, IRGenerator.NewCondBr, IRGenerator.NewRet, IRGenerator.NewUnreachable, IRGenerator.NewFunc, IRGenerator.NewGlobalDef] at e
  repeat' (first
    | (first | (revert e; with_reducible apply (Keeps.keeps_less ∘ (h.keeps_asResult)); done) | (revert e; with_reducible apply (Keeps.keeps_less ∘ (h.keeps_failWith)); done) | (revert e; with_reducible apply (Keeps.keeps_less ∘ (h.keeps_NewInst)); done) | (revert e; with_reducible apply (Keeps.keeps_less ∘ (h.keeps_NewStore)); done) | (revert e; with_reducible apply (Keeps.keeps_less ∘ (h.keeps_NewTerm)); done) | (revert e; with_reducible apply (Keeps.keeps_less ∘ (h.keeps_NewInstAt)); done) | (revert e; with_reducible apply (Keeps.keeps_less ∘ (h.keeps_NewStoreAt)); done) | (revert e; with_reducible apply (Keeps.keeps_less ∘ (h.keeps_NewTermAt)); done) | (revert e; with_reducible apply (Keeps.keeps_less ∘ (h.keeps_NewBlock)); done) | (revert e; with_reducible apply (Keeps.keeps_less ∘ (h.keeps_NewBlockIn)); done) | fail)
    | (apply stepWith e; (focus (with_reducible apply (@ite_ok _ _ _ _ _ _); done)); intro e2
       clear e
       rcases e2 with ⟨hc, e⟩ | ⟨hc, e⟩ <;>
       try (apply stepWith hc; (focus (with_reducible apply (h.keeps_inFuncNot); done)); intro i1))
    | (simp only [bind_assoc, pure_bind] at e)
    | (rw [bind_ok] at e
       obtain ⟨⟨x1, g1⟩, e1, e⟩ := e
       try dsimp only at e
       try (apply stepWith e1; (focus (with_reducible apply (h.keeps_inFuncNew); done)); intro f0)
       try (apply stepWith e1; (focus (with_reducible apply (h.keeps_ownedNew); done)); intro f1)
       try (apply stepWith e1; (focus (with_reducible apply (ptrVal_of_NewInst); done)); intro f2)
       first
         | (apply stepWith e1; (focus (with_reducible apply (h.keeps_NewInst); done)); clear h; intro h) | (apply stepWith e1; (focus (with_reducible apply (h.keeps_NewStore); done)); clear h; intro h) | (apply stepWith e1; (focus (with_reducible apply (h.keeps_NewTerm); done)); clear h; intro h) | (apply stepWith e1; (focus (with_reducible apply (h.keeps_NewInstAt); done)); clear h; intro h) | (apply stepWith e1; (focus (with_reducible apply (h.keeps_NewStoreAt); done)); clear h; intro h) | (apply stepWith e1; (focus (with_reducible apply (h.keeps_NewTermAt); done)); clear h; intro h) | (apply stepWith e1; (focus (with_reducible apply (h.keeps_NewBlock); done)); clear h; intro h) | (apply stepWith e1; (focus (with_reducible apply (h.keeps_NewBlockIn); done)); clear h; intro h)
         | (cases e1)
         | (refine Keeps.keeps_cutFrom h (b := g1) ?_ ?_ <;>
             first | (intro h2; clear h e1; rename' h2 => h) | (clear e; rename' e1 => e))
         | fail)
    | (split at e <;>
       try (rename_i heq
            try (apply stepWith heq; (focus (with_reducible apply (h.keeps_inFunc); done)); intro i2)
            try (apply stepWith heq; (focus (with_reducible apply (h.keeps_curFunc); done)); intro i3)
            try (first | (apply stepWith heq; (focus (with_reducible apply (h.keeps_NewInst); done)); clear h; intro h) | (apply stepWith heq; (focus (with_reducible apply (h.keeps_NewStore); done)); clear h; intro h) | (apply stepWith heq; (focus (with_reducible apply (h.keeps_NewTerm); done)); clear h; intro h) | (apply stepWith heq; (focus (with_reducible apply (h.keeps_NewInstAt); done)); clear h; intro h) | (apply stepWith heq; (focus (with_reducible apply (h.keeps_NewStoreAt); done)); clear h; intro h) | (apply stepWith heq; (focus (with_reducible apply (h.keeps_NewTermAt); done)); clear h; intro h) | (apply stepWith heq; (focus (with_reducible apply (h.keeps_NewBlock); done)); clear h; intro h) | (apply stepWith heq; (focus (with_reducible apply (h.keeps_NewBlockIn); done)); clear h; intro h) | fail)))
    | (cases e; first | done | exact Keeps.keeps_less (Keeps.keeps_ext h) | fail)
    | (dsimp only at e)
    | fail)

theorem Keeps.keeps_makeSlice {a g x g' : IRGenerator} {B : List Nat} [KExt a g x B] {elementType : Ty} {length capacity : Option Value} {r : Option Value}
    (h : Keeps a g B) (e : makeSlice elementType length capacity x = .ok (r, g')) : Keeps a g' B := by
  replace h : Keeps a x B := h.keeps_ext
  unfold Irgen.makeSlice at e
  try simp only [IRGenerator.NewAlloca, IRGenerator.NewLoad, IRGenerator.NewBin, IRGenerator.NewICmp, IRGenerator.NewFCmp, IRGenerator.NewGetElementPtr, IRGenerator.funcValue, NewCall_func, IRGenerator.NewCall, IRGenerator.NewZExt, IRGenerator.NewSelect, IRGenerator.NewBr, IRGenerator.NewCondBr, IRGenerator.NewRet, IRGenerator.NewUnreachable, IRGenerator.NewFunc, IRGenerator.NewGlobalDef] at e
  repeat' (first
    | (first | (revert e; with_reducible apply (Keeps.keeps_less ∘ (h.keeps_asResult)); done) | (revert e; with_reducible apply (Keeps.keeps_less ∘ (h.keeps_failWith)); done) | (revert e; with_reducible apply (Keeps.keeps_less ∘ (h.keeps_NewInst)); done) | (revert e; with_reducible apply (Keeps.keeps_less ∘ (h.keeps_NewStore)); done) | (revert e; with_reducible apply (Keeps.keeps_less ∘ (h.keeps_NewTerm)); done) | (revert e; with_reducible apply (Keeps.keeps_less ∘ (h.keeps_NewInstAt)); done) | (revert e; with_reducible apply (Keeps.keeps_less ∘ (h.keeps_NewStoreAt)); done) | (revert e; with_reducible apply (Keeps.keeps_less ∘ (h.keeps_NewTermAt)); done) | (revert e; with_reducible apply (Keeps.keeps_less ∘ (h.keeps_NewBlock)); done) | (revert e; with_reducible apply (Keeps.keeps_less ∘ (h.keeps_NewBlockIn)); done) | fail)
    | (apply stepWith e; (focus (with_reducible apply (@ite_ok _ _ _ _ _ _); done)); intro e2
       clear e
       rcases e2 with ⟨hc, e⟩ | ⟨hc, e⟩ <;>
       try (apply stepWith hc; (focus (with_reducible apply (h.keeps_inFuncNot); done)); intro i1))
    | (simp only [bind_assoc, pure_bind] at e)
    | (rw [bind_ok] at e
       obtain ⟨⟨x1, g1⟩, e1, e⟩ := e
       try dsimp only at e
       try (apply stepWith e1; (focus (with_reducible apply (h.keeps_inFuncNew); done)); intro f0)
       try (apply stepWith e1; (focus (with_reducible apply (h.keeps_ownedNew); done)); intro f1)
       try (apply stepWith e1; (focus (with_reducible apply (ptrVal_of_NewInst); done)); intro f2)
       first
         | (apply stepWith e1; (focus (with_reducible apply (h.keeps_NewInst); done)); clear h; intro h) | (apply stepWith e1; (focus (with_reducible apply (h.keeps_NewStore); done)); clear h; intro h) | (apply stepWith e1; (focus (with_reducible apply (h.keeps_NewTerm); done)); clear h; intro h) | (apply stepWith e1; (focus (with_reducible apply (h.keeps_NewInstAt); done)); clear h; intro h) | (apply stepWith e1; (focus (with_reducible apply (h.keeps_NewStoreAt); done)); clear h; intro h) | (apply stepWith e1; (focus (with_reducible apply (h.keeps_NewTermAt); done)); clear h; intro h) | (apply stepWith e1; (focus (with_reducible apply (h.keeps_NewBlock); done)); clear h; intro h) | (apply stepWith e1; (focus (with_reducible apply (h.keeps_NewBlockIn); done)); clear h; intro h)
         | (cases e1)
         | (refine Keeps.keeps_cutFrom h (b := g1) ?_ ?_ <;>
             first | (intro h2; clear h e1; rename' h2 => h) | (clear e; rename' e1 => e))
         | fail)
    | (split at e <;>
       try (rename_i heq
            try (apply stepWith heq; (focus (with_reducible apply (h.keeps_inFunc); done)); intro i2)
            try (apply stepWith heq; (focus (with_reducible apply (h.keeps_curFunc); done)); intro i3)
            try (first | (apply stepWith heq; (focus (with_reducible apply (h.keeps_NewInst); done)); clear h; intro h) | (apply stepWith heq; (focus (with_reducible apply (h.keeps_NewStore); done)); clear h; intro h) | (apply stepWith heq; (focus (with_reducible apply (h.keeps_NewTerm); done)); clear h; intro h) | (apply stepWith heq; (focus (with_reducible apply (h.keeps_NewInstAt); done)); clear h; intro h) | (apply stepWith heq; (focus (with_reducible apply (h.keeps_NewStoreAt); done)); clear h; intro h) | (apply stepWith heq; (focus (with_reducible apply (h.keeps_NewTermAt); done)); clear h; intro h) | (apply stepWith heq; (focus (with_reducible apply (h.keeps_NewBlock); done)); clear h; intro h) | (apply stepWith heq; (focus (with_reducible apply (h.keeps_NewBlockIn); done)); clear h; intro h) | fail)))
    | (cases e; first | done | exact Keeps.keeps_less (Keeps.keeps_ext h) | fail)
    | (dsimp only at e)
    | fail)

theorem Keeps.keeps_arrayElement {a g x g' : IRGenerator} {B : List Nat} [KExt a g x B] {i : Nat} {elementValue : Value} {elementType arrayType : Ty} {arrayAlloca : Value} {r : Unit}
    (h : Keeps a g B) (e : arrayElement i elementValue elementType arrayType arrayAlloca x = .ok (r, g')) : Keeps a g' B := by
  replace h : Keeps a x B := h.keeps_ext
  unfold Irgen.arrayElement at e
  try simp only [IRGenerator.NewAlloca, IRGenerator.NewLoad, IRGenerator.NewBin, IRGenerator.NewICmp, IRGenerator.NewFCmp, IRGenerator.NewGetElementPtr, IRGenerator.funcValue, NewCall_func, IRGenerator.NewCall, IRGenerator.NewZExt, IRGenerator.NewSelect, IRGenerator.NewBr, IRGenerator.NewCondBr, IRGenerator.NewRet, IRGenerator.NewUnreachable, IRGenerator.NewFunc, IRGenerator.NewGlobalDef] at e
  repeat' (first
    | (first | (revert e; with_reducible apply (Keeps.keeps_less ∘ (h.keeps_asResult)); done) | (revert e; with_reducible apply (Keeps.keeps_less ∘ (h.keeps_failWith)); done) | (revert e; with_reducible apply (Keeps.keeps_less ∘ (h.keeps_NewInst)); done) | (revert e; with_reducible apply (Keeps.keeps_less ∘ (h.keeps_NewStore)); done) | (revert e; with_reducible apply (Keeps.keeps_less ∘ (h.keeps_NewTerm)); done) | (revert e; with_reducible apply (Keeps.keeps_less ∘ (h.keeps_NewInstAt)); done) | (revert e; with_reducible apply (Keeps.keeps_less ∘ (h.keeps_NewStoreAt)); done) | (revert e; with_reducible apply (Keeps.keeps_less ∘ (h.keeps_NewTermAt)); done) | (revert e; with_reducible apply (Keeps.keeps_less ∘ (h.keeps_NewBlock)); done) | (revert e; with_reducible apply (Keeps.keeps_less ∘ (h.keeps_NewBlockIn)); done) | fail)
    | (apply stepWith e; (focus (with_reducible apply (@ite_ok _ _ _ _ _ _); done)); intro e2
       clear e
       rcases e2 with ⟨hc, e⟩ | ⟨hc, e⟩ <;>
       try (apply stepWith hc; (focus (with_reducible apply (h.keeps_inFuncNot); done)); intro i1))
    | (simp only [bind_assoc, pure_bind] at e)
    | (rw [bind_ok] at e
       obtain ⟨⟨x1, g1⟩, e1, e⟩ := e
       try dsimp only at e
       try (apply stepWith e1; (focus (with_reducible apply (h.keeps_inFuncNew); done)); intro f0)
       try (apply stepWith e1; (focus (with_reducible apply (h.keeps_ownedNew); done)); intro f1)
       try (apply stepWith e1; (focus (with_reducible apply (ptrVal_of_NewInst); done)); intro f2)
       first
         | (apply stepWith e1; (focus (with_reducible apply (h.keeps_NewInst); done)); clear h; intro h) | (apply stepWith e1; (focus (with_reducible apply (h.keeps_NewStore); done)); clear h; intro h) | (apply stepWith e1; (focus (with_reducible apply (h.keeps_NewTerm); done)); clear h; intro h) | (apply stepWith e1; (focus (with_reducible apply (h.keeps_NewInstAt); done)); clear h; intro h) | (apply stepWith e1; (focus (with_reducible apply (h.keeps_NewStoreAt); done)); clear h; intro h) | (apply stepWith e1; (focus (with_reducible apply (h.keeps_NewTermAt); done)); clear h; intro h) | (apply stepWith e1; (focus (with_reducible apply (h.keeps_NewBlock); done)); clear h; intro h) | (apply stepWith e1; (focus (with_reducible apply (h.keeps_NewBlockIn); done)); clear h; intro h)
         | (cases e1)
         | (refine Keeps.keeps_cutFrom h (b := g1) ?_ ?_ <;>
             first | (intro h2; clear h e1; rename' h2 => h) | (clear e; rename' e1 => e))
         | fail)
    | (split at e <;>
       try (rename_i heq
            try (apply stepWith heq; (focus (with_reducible apply (h.keeps_inFunc); done)); intro i2)
            try (apply stepWith heq; (focus (with_reducible apply (h.keeps_curFunc); done)); intro i3)
            try (first | (apply stepWith heq; (focus (with_reducible apply (h.keeps_NewInst); done)); clear h; intro h) | (apply stepWith heq; (focus (with_reducible apply (h.keeps_NewStore); done)); clear h; intro h) | (apply stepWith heq; (focus (with_reducible apply (h.keeps_NewTerm); done)); clear h; intro h) | (apply stepWith heq; (focus (with_reducible apply (h.keeps_NewInstAt); done)); clear h; intro h) | (apply stepWith heq; (focus (with_reducible apply (h.keeps_NewStoreAt); done)); clear h; intro h) | (apply stepWith heq; (focus (with_reducible apply (h.keeps_NewTermAt); done)); clear h; intro h) | (apply stepWith heq; (focus (with_reducible apply (h.keeps_NewBlock); done)); clear h; intro h) | (apply stepWith heq; (focus (with_reducible apply (h.keeps_NewBlockIn); done)); clear h; intro h) | fail)))
    | (cases e; first | done | exact Keeps.keeps_less (Keeps.keeps_ext h) | fail)
    | (dsimp only at e)
    | fail)

theorem Keeps.keeps_implicitReturn {a g x g' : IRGenerator} {B : List Nat} [KExt a g x B] {bodyIsNil : Bool} {r : Unit}
    (h : Keeps a g B) (e : implicitReturn bodyIsNil x = .ok (r, g')) : Keeps a g' B := by
  replace h : Keeps a x B := h.keeps_ext
  unfold Irgen.implicitReturn at e
  try simp only [IRGenerator.NewAlloca, IRGenerator.NewLoad, IRGenerator.NewBin, IRGenerator.NewICmp, IRGenerator.NewFCmp, IRGenerator.NewGetElementPtr, IRGenerator.funcValue, NewCall_func, IRGenerator.NewCall, IRGenerator.NewZExt, IRGenerator.NewSelect, IRGenerator.NewBr, IRGenerator.NewCondBr, IRGenerator.NewRet, IRGenerator.NewUnreachable, IRGenerator.NewFunc, IRGenerator.NewGlobalDef] at e
  repeat' (first
    | (first | (revert e; with_reducible apply (Keeps.keeps_less ∘ (h.keeps_asResult)); done) | (revert e; with_reducible apply (Keeps.keeps_less ∘ (h.keeps_failWith)); done) | (revert e; with_reducible apply (Keeps.keeps_less ∘ (h.keeps_NewInst)); done) | (revert e; with_reducible apply (Keeps.keeps_less ∘ (h.keeps_NewStore)); done) | (revert e; with_reducible apply (Keeps.keeps_less ∘ (h.keeps_NewTerm)); done) | (revert e; with_reducible apply (Keeps.keeps_less ∘ (h.keeps_NewInstAt)); done) | (revert e; with_reducible apply (Keeps.keeps_less ∘ (h.keeps_NewStoreAt)); done) | (revert e; with_reducible apply (Keeps.keeps_less ∘ (h.keeps_NewTermAt)); done) | (revert e; with_reducible apply (Keeps.keeps_less ∘ (h.keeps_NewBlock)); done) | (revert e; with_reducible apply (Keeps.keeps_less ∘ (h.keeps_NewBlockIn)); done) | fail)
    | (apply stepWith e; (focus (with_reducible apply (@ite_ok _ _ _ _ _ _); done)); intro e2
       clear e
       rcases e2 with ⟨hc, e⟩ | ⟨hc, e⟩ <;>
       try (apply stepWith hc; (focus (with_reducible apply (h.keeps_inFuncNot); done)); intro i1))
    | (simp only [bind_assoc, pure_bind] at e)
    | (rw [bind_ok] at e
       obtain ⟨⟨x1, g1⟩, e1, e⟩ := e
       try dsimp only at e
       try (apply stepWith e1; (focus (with_reducible apply (h.keeps_inFuncNew); done)); intro f0)
       try (apply stepWith e1; (focus (with_reducible apply (h.keeps_ownedNew); done)); intro f1)
       try (apply stepWith e1; (focus (with_reducible apply (ptrVal_of_NewInst); done)); intro f2)
       first
         | (apply stepWith e1; (focus (with_reducible apply (h.keeps_NewInst); done)); clear h; intro h) | (apply stepWith e1; (focus (with_reducible apply (h.keeps_NewStore); done)); clear h; intro h) | (apply stepWith e1; (focus (with_reducible apply (h.keeps_NewTerm); done)); clear h; intro h) | (apply stepWith e1; (focus (with_reducible apply (h.keeps_NewInstAt); done)); clear h; intro h) | (apply stepWith e1; (focus (with_reducible apply (h.keeps_NewStoreAt); done)); clear h; intro h) | (apply stepWith e1; (focus (with_reducible apply (h.keeps_NewTermAt); done)); clear h; intro h) | (apply stepWith e1; (focus (with_reducible apply (h.keeps_NewBlock); done)); clear h; intro h) | (apply stepWith e1; (focus (with_reducible apply (h.keeps_NewBlockIn); done)); clear h; intro h)
         | (cases e1)
         | (refine Keeps.keeps_cutFrom h (b := g1) ?_ ?_ <;>
             first | (intro h2; clear h e1; rename' h2 => h) | (clear e; rename' e1 => e))
         | fail)
    | (split at e <;>
       try (rename_i heq
            try (apply stepWith heq; (focus (with_reducible apply (h.keeps_inFunc); done)); intro i2)
            try (apply stepWith heq; (focus (with_reducible apply (h.keeps_curFunc); done)); intro i3)
            try (first | (apply stepWith heq; (focus (with_reducible apply (h.keeps_NewInst); done)); clear h; intro h) | (apply stepWith heq; (focus (with_reducible apply (h.keeps_NewStore); done)); clear h; intro h) | (apply stepWith heq; (focus (with_reducible apply (h.keeps_NewTerm); done)); clear h; intro h) | (apply stepWith heq; (focus (with_reducible apply (h.keeps_NewInstAt); done)); clear h; intro h) | (apply stepWith heq; (focus (with_reducible apply (h.keeps_NewStoreAt); done)); clear h; intro h) | (apply stepWith heq; (focus (with_reducible apply (h.keeps_NewTermAt); done)); clear h; intro h) | (apply stepWith heq; (focus (with_reducible apply (h.keeps_NewBlock); done)); clear h; intro h) | (apply stepWith heq; (focus (with_reducible apply (h.keeps_NewBlockIn); done)); clear h; intro h) | fail)))
    | (cases e; first | done | exact Keeps.keeps_less (Keeps.keeps_ext h) | fail)
    | (dsimp only at e)
    | fail)

theorem Keeps.keeps_printfNoArguments {a g x g' : IRGenerator} {B : List Nat} [KExt a g x B] {funcName : String} {r : Option Value}
    (h : Keeps a g B) (e : printfNoArguments funcName x = .ok (r, g')) : Keeps a g' B := by
  replace h : Keeps a x B := h.keeps_ext
  unfold Irgen.printfNoArguments at e
  try simp only [IRGenerator.NewAlloca, IRGenerator.NewLoad, IRGenerator.NewBin, IRGenerator.NewICmp, IRGenerator.NewFCmp, IRGenerator.NewGetElementPtr, IRGenerator.funcValue, NewCall_func, IRGenerator.NewCall, IRGenerator.NewZExt, IRGenerator.NewSelect, IRGenerator.NewBr, IRGenerator.NewCondBr, IRGenerator.NewRet, IRGenerator.NewUnreachable, IRGenerator.NewFunc, IRGenerator.NewGlobalDef] at e
  repeat' (first
    | (first | (revert e; with_reducible apply (Keeps.keeps_less ∘ (h.keeps_asResult)); done) | (revert e; with_reducible apply (Keeps.keeps_less ∘ (h.keeps_failWith)); done) | (revert e; with_reducible apply (Keeps.keeps_less ∘ (h.keeps_NewInst)); done) | (revert e; with_reducible apply (Keeps.keeps_less ∘ (h.keeps_NewStore)); done) | (revert e; with_reducible apply (Keeps.keeps_less ∘ (h.keeps_NewTerm)); done) | (revert e; with_reducible apply (Keeps.keeps_less ∘ (h.keeps_NewInstAt)); done) | (revert e; with_reducible apply (Keeps.keeps_less ∘ (h.keeps_NewStoreAt)); done) | (revert e; with_reducible apply (Keeps.keeps_less ∘ (h.keeps_NewTermAt)); done) | (revert e; with_reducible apply (Keeps.keeps_less ∘ (h.keeps_NewBlock)); done) | (revert e; with_reducible apply (Keeps.keeps_less ∘ (h.keeps_NewBlockIn)); done) | fail)
    | (apply stepWith e; (focus (with_reducible apply (@ite_ok _ _ _ _ _ _); done)); intro e2
       clear e
       rcases e2 with ⟨hc, e⟩ | ⟨hc, e⟩ <;>
       try (apply stepWith hc; (focus (with_reducible apply (h.keeps_inFuncNot); done)); intro i1))
    | (simp only [bind_assoc, pure_bind] at e)
    | (rw [bind_ok] at e
       obtain ⟨⟨x1, g1⟩, e1, e⟩ := e
       try dsimp only at e
       try (apply stepWith e1; (focus (with_reducible apply (h.keeps_inFuncNew); done)); intro f0)
       try (apply stepWith e1; (focus (with_reducible apply (h.keeps_ownedNew); done)); intro f1)
       try (apply stepWith e1; (focus (with_reducible apply (ptrVal_of_NewInst); done)); intro f2)
       first
         | (apply stepWith e1; (focus (with_reducible apply (h.keeps_NewInst); done)); clear h; intro h) | (apply stepWith e1; (focus (with_reducible apply (h.keeps_NewStore); done)); clear h; intro h) | (apply stepWith e1; (focus (with_reducible apply (h.keeps_NewTerm); done)); clear h; intro h) | (apply stepWith e1; (focus (with_reducible apply (h.keeps_NewInstAt); done)); clear h; intro h) | (apply stepWith e1; (focus (with_reducible apply (h.keeps_NewStoreAt); done)); clear h; intro h) | (apply stepWith e1; (focus (with_reducible apply (h.keeps_NewTermAt); done)); clear h; intro h) | (apply stepWith e1; (focus (with_reducible apply (h.keeps_NewBlock); done)); clear h; intro h) | (apply stepWith e1; (focus (with_reducible apply (h.keeps_NewBlockIn); done)); clear h; intro h)
         | (cases e1)
         | (refine Keeps.keeps_cutFrom h (b := g1) ?_ ?_ <;>
             first | (intro h2; clear h e1; rename' h2 => h) | (clear e; rename' e1 => e))
         | fail)
    | (split at e <;>
       try (rename_i heq
            try (apply stepWith heq; (focus (with_reducible apply (h.keeps_inFunc); done)); intro i2)
            try (apply stepWith heq; (focus (with_reducible apply (h.keeps_curFunc); done)); intro i3)
            try (first | (apply stepWith heq; (focus (with_reducible apply (h.keeps_getOrDeclare); done)); clear h; intro h) | (apply stepWith heq; (focus (with_reducible apply (h.keeps_generateStringLiteral); done)); clear h; intro h) | (apply stepWith heq; (focus (with_reducible apply (h.keeps_NewInst); done)); clear h; intro h) | (apply stepWith heq; (focus (with_reducible apply (h.keeps_NewStore); done)); clear h; intro h) | (apply stepWith heq; (focus (with_reducible apply (h.keeps_NewTerm); done)); clear h; intro h) | (apply stepWith heq; (focus (with_reducible apply (h.keeps_NewInstAt); done)); clear h; intro h) | (apply stepWith heq; (focus (with_reducible apply (h.keeps_NewStoreAt); done)); clear h; intro h) | (apply stepWith heq; (focus (with_reducible apply (h.keeps_NewTermAt); done)); clear h; intro h) | (apply stepWith heq; (focus (with_reducible apply (h.keeps_NewBlock); done)); clear h; intro h) | (apply stepWith heq; (focus (with_reducible apply (h.keeps_NewBlockIn); done)); clear h; intro h) | fail)))
    | (cases e; first | done | exact Keeps.keeps_less (Keeps.keeps_ext h) | fail)
    | (dsimp only at e)
    | fail)

theorem Keeps.keeps_printfCall {a g x g' : IRGenerator} {B : List Nat} [KExt a g x B] {funcName : String} {printFunc : Nat} {formatParts : List String} {irArgs : List Value} {r : Option Value}
    (h : Keeps a g B) (e : printfCall funcName printFunc formatParts irArgs x = .ok (r, g')) : Keeps a g' B := by
  replace h : Keeps a x B := h.keeps_ext
  unfold Irgen.printfCall at e
  try simp only [IRGenerator.NewAlloca, IRGenerator.NewLoad, IRGenerator.NewBin, IRGenerator.NewICmp, IRGenerator.NewFCmp, IRGenerator.NewGetElementPtr, IRGenerator.funcValue, NewCall_func, IRGenerator.NewCall, IRGenerator.NewZExt, IRGenerator.NewSelect, IRGenerator.NewBr, IRGenerator.NewCondBr, IRGenerator.NewRet, IRGenerator.NewUnreachable, IRGenerator.NewFunc, IRGenerator.NewGlobalDef] at e
  repeat' (first
    | (first | (revert e; with_reducible apply (Keeps.keeps_less ∘ (h.keeps_asResult)); done) | (revert e; with_reducible apply (Keeps.keeps_less ∘ (h.keeps_failWith)); done) | (revert e; with_reducible apply (Keeps.keeps_less ∘ (h.keeps_NewInst)); done) | (revert e; with_reducible apply (Keeps.keeps_less ∘ (h.keeps_NewStore)); done) | (revert e; with_reducible apply (Keeps.keeps_less ∘ (h.keeps_NewTerm)); done) | (revert e; with_reducible apply (Keeps.keeps_less ∘ (h.keeps_NewInstAt)); done) | (revert e; with_reducible apply (Keeps.keeps_less ∘ (h.keeps_NewStoreAt)); done) | (revert e; with_reducible apply (Keeps.keeps_less ∘ (h.keeps_NewTermAt)); done) | (revert e; with_reducible apply (Keeps.keeps_less ∘ (h.keeps_NewBlock)); done) | (revert e; with_reducible apply (Keeps.keeps_less ∘ (h.keeps_NewBlockIn)); done) | fail)
    | (apply stepWith e; (focus (with_reducible apply (@ite_ok _ _ _ _ _ _); done)); intro e2
       clear e
       rcases e2 with ⟨hc, e⟩ | ⟨hc, e⟩ <;>
       try (apply stepWith hc; (focus (with_reducible apply (h.keeps_inFuncNot); done)); intro i1))
    | (simp only [bind_assoc, pure_bind] at e)
    | (rw [bind_ok] at e
       obtain ⟨⟨x1, g1⟩, e1, e⟩ := e
       try dsimp only at e
       try (apply stepWith e1; (focus (with_reducible apply (h.keeps_inFuncNew); done)); intro f0)
       try (apply stepWith e1; (focus (with_reducible apply (h.keeps_ownedNew); done)); intro f1)
       try (apply stepWith e1; (focus (with_reducible apply (ptrVal_of_NewInst); done)); intro f2)
       first
         | (apply stepWith e1; (focus (with_reducible apply (h.keeps_NewInst); done)); clear h; intro h) | (apply stepWith e1; (focus (with_reducible apply (h.keeps_NewStore); done)); clear h; intro h) | (apply stepWith e1; (focus (with_reducible apply (h.keeps_NewTerm); done)); clear h; intro h) | (apply stepWith e1; (focus (with_reducible apply (h.keeps_NewInstAt); done)); clear h; intro h) | (apply stepWith e1; (focus (with_reducible apply (h.keeps_NewStoreAt); done)); clear h; intro h) | (apply stepWith e1; (focus (with_reducible apply (h.keeps_NewTermAt); done)); clear h; intro h) | (apply stepWith e1; (focus (with_reducible apply (h.keeps_NewBlock); done)); clear h; intro h) | (apply stepWith e1; (focus (with_reducible apply (h.keeps_NewBlockIn); done)); clear h; intro h)
         | (cases e1)
         | (refine Keeps.keeps_cutFrom h (b := g1) ?_ ?_ <;>
             first | (intro h2; clear h e1; rename' h2 => h) | (clear e; rename' e1 => e))
         | fail)
    | (split at e <;>
       try (rename_i heq
            try (apply stepWith heq; (focus (with_reducible apply (h.keeps_inFunc); done)); intro i2)
            try (apply stepWith heq; (focus (with_reducible apply (h.keeps_curFunc); done)); intro i3)
            try (first | (apply stepWith heq; (focus (with_reducible apply (h.keeps_generateStringLiteral); done)); clear h; intro h) | (apply stepWith heq; (focus (with_reducible apply (h.keeps_NewInst); done)); clear h; intro h) | (apply stepWith heq; (focus (with_reducible apply (h.keeps_NewStore); done)); clear h; intro h) | (apply stepWith heq; (focus (with_reducible apply (h.keeps_NewTerm); done)); clear h; intro h) | (apply stepWith heq; (focus (with_reducible apply (h.keeps_NewInstAt); done)); clear h; intro h) | (apply stepWith heq; (focus (with_reducible apply (h.keeps_NewStoreAt); done)); clear h; intro h) | (apply stepWith heq; (focus (with_reducible apply (h.keeps_NewTermAt); done)); clear h; intro h) | (apply stepWith heq; (focus (with_reducible apply (h.keeps_NewBlock); done)); clear h; intro h) | (apply stepWith heq; (focus (with_reducible apply (h.keeps_NewBlockIn); done)); clear h; intro h) | fail)))
    | (cases e; first | done | exact Keeps.keeps_less (Keeps.keeps_ext h) | fail)
    | (dsimp only at e)
    | fail)

/-- The block made by `NewBlock` is the next free address. -/
theorem NewBlock_result {x g' : IRGenerator} {fn : Option Nat} {name : String} {b : Nat}
    (e : x.NewBlock fn name = .ok (b, g')) : b = x.nblocks ∧ g'.nblocks = x.nblocks + 1 := by
  cases fn with
  | none => cases e
  | some f =>
    simp only [NewBlock_some, Except.ok.injEq, Prod.mk.injEq] at e
    rw [← e.1, ← e.2]
    exact ⟨rfl, rfl⟩

/-- The block in which the comparisons of a clause continue is the one given
or a block made since. -/
theorem taggedSwitchValues_result (l : List Expression) :
    ∀ (i : Nat) (sv : Value) (cbs : List Nat) (cur : Option Nat) (x g' : IRGenerator)
      (r : Option Nat), taggedSwitchValues l i sv cbs cur x = .ok (r, g') →
      r = cur ∨ ∃ b, r = some b ∧ x.nblocks ≤ b := by
  induction l with
  | nil =>
    intro i sv cbs cur x g' r e
    cases e
    exact Or.inl rfl
  | cons v rest ih =>
    intro i sv cbs cur x g' r e
    rw [taggedSwitchValues_cons_eq, bind_ok] at e
    obtain ⟨⟨val, g1⟩, e1, e⟩ := e
    have m1 := (generateExpression_grows _ _ _ _ e1).nblocks
    cases val with
    | none =>
      rcases ih _ _ _ _ _ _ _ e with h | ⟨b, hb, hle⟩
      · exact Or.inl h
      · exact Or.inr ⟨b, hb, Nat.le_trans m1 hle⟩
    | some val =>
      dsimp only at e
      rw [bind_ok] at e
      obtain ⟨⟨cmp, g2⟩, e2, e⟩ := e
      have m2 := ((Grows.refl g1).NewInst (NewICmp_ok e2)).nblocks
      rw [bind_ok] at e
      obtain ⟨⟨nb, g3⟩, e3, e⟩ := e
      have m3 := NewBlock_result e3
      rw [bind_ok] at e
      obtain ⟨⟨u, g4⟩, e4, e⟩ := e
      have m4 := ((Grows.refl g3).NewTerm e4).nblocks
      dsimp only at e m3 m4
      rcases ih _ _ _ _ _ _ _ e with h | ⟨b, hb, hle⟩
      · exact Or.inr ⟨nb, h, by omega⟩
      · exact Or.inr ⟨b, hb, by omega⟩

theorem taggedSwitchCases_result (l : List CaseClause) :
    ∀ (i : Nat) (sv : Value) (cbs : List Nat) (cur : Option Nat) (x g' : IRGenerator)
      (r : Option Nat), taggedSwitchCases l i sv cbs cur x = .ok (r, g') →
      r = cur ∨ ∃ b, r = some b ∧ x.nblocks ≤ b := by
  induction l with
  | nil =>
    intro i sv cbs cur x g' r e
    cases e
    exact Or.inl rfl
  | cons c rest ih =>
    intro i sv cbs cur x g' r e
    rcases c with ⟨d, vs, body⟩
    rw [taggedSwitchCases_cons_eq] at e
    split at e
    · exact ih _ _ _ _ _ _ _ e
    · rw [bind_ok] at e
      obtain ⟨⟨c1, g1⟩, e1, e⟩ := e
      have m1 := (Grows.taggedSwitchValues (fun e _ => exprOK e) (Grows.refl x) e1).nblocks
      rcases taggedSwitchValues_result _ _ _ _ _ _ _ _ e1 with h1 | ⟨b1, hb1, hle1⟩
      · subst h1
        rcases ih _ _ _ _ _ _ _ e with h | ⟨b, hb, hle⟩
        · exact Or.inl h
        · exact Or.inr ⟨b, hb, Nat.le_trans m1 hle⟩
      · rcases ih _ _ _ _ _ _ _ e with h | ⟨b, hb, hle⟩
        · exact Or.inr ⟨b1, h.trans hb1, hle1⟩
        · exact Or.inr ⟨b, hb, Nat.le_trans m1 hle⟩

theorem booleanSwitchCases_result (l : List CaseClause) :
    ∀ (i : Nat) (cbs : List Nat) (cur : Option Nat) (x g' : IRGenerator)
      (r : Option Nat), booleanSwitchCases l i cbs cur x = .ok (r, g') →
      r = cur ∨ ∃ b, r = some b ∧ x.nblocks ≤ b := by
  induction l with
  | nil =>
    intro i cbs cur x g' r e
    cases e
    exact Or.inl rfl
  | cons c rest ih =>
    intro i cbs cur x g' r e
    rcases c with ⟨d, vs, body⟩
    rw [booleanSwitchCases_cons_eq] at e
    split at e
    · exact ih _ _ _ _ _ _ e
    · rw [bind_ok] at e
      obtain ⟨⟨c1, g1⟩, e1, e⟩ := e
      have m1 := (Grows.booleanSwitchValues (fun e _ => exprOK e) (Grows.refl x) e1).nblocks
      cases c1 with
      | none =>
        rcases ih _ _ _ _ _ _ e with h | ⟨b, hb, hle⟩
        · exact Or.inl h
        · exact Or.inr ⟨b, hb, Nat.le_trans m1 hle⟩
      | some cond =>
        dsimp only at e
        rw [bind_ok] at e
        obtain ⟨⟨nb, g2⟩, e2, e⟩ := e
        have m2 := NewBlock_result e2
        rw [bind_ok] at e
        obtain ⟨⟨u, g3⟩, e3, e⟩ := e
        have m3 := ((Grows.refl g2).NewTerm e3).nblocks
        dsimp only at e m2 m3
        rcases ih _ _ _ _ _ _ e with h | ⟨b, hb, hle⟩
        · exact Or.inr ⟨nb, h, by omega⟩
        · exact Or.inr ⟨b, hb, by omega⟩

/-- The case blocks made for the clauses: one per clause, all made since;
the default block is the one given or one made since. -/
theorem newCaseBlocks_result (l : List CaseClause) :
    ∀ (i : Nat) (suffix : String) (d : Option Nat) (x g' : IRGenerator)
      (r : List Nat × Option Nat), newCaseBlocks l i suffix d x = .ok (r, g') →
      r.1.length = l.length ∧ (∀ b ∈ r.1, x.nblocks ≤ b ∧ b < g'.nblocks) ∧
        (r.2 = d ∨ ∃ b, r.2 = some b ∧ x.nblocks ≤ b) := by
  induction l with
  | nil =>
    intro i suffix d x g' r e
    cases e
    exact ⟨rfl, fun _ hb => (by cases hb), Or.inl rfl⟩
  | cons c rest ih =>
    intro i suffix d x g' r e
    rw [newCaseBlocks] at e
    split at e
    · rw [bind_ok] at e
      obtain ⟨⟨nb, g1⟩, e1, e⟩ := e
      have m1 := NewBlock_result e1
      rw [bind_ok] at e
      obtain ⟨⟨⟨bs, d2⟩, g2⟩, e2, e⟩ := e
      have m2 := (Grows.newCaseBlocks (Grows.refl g1) e2).nblocks
      cases e
      obtain ⟨q1, q2, q3⟩ := ih _ _ _ _ _ _ e2
      dsimp only at q1 q2 q3 m1 ⊢
      refine ⟨by simp [q1], ?_, ?_⟩
      · intro b hb
        rcases List.mem_cons.mp hb with hb | hb
        · omega
        · have := q2 b hb
          omega
      · rcases q3 with q3 | ⟨b, hb, hle⟩
        · exact Or.inr ⟨nb, q3, by omega⟩
        · exact Or.inr ⟨b, hb, by omega⟩
    · rw [bind_ok] at e
      obtain ⟨⟨nb, g1⟩, e1, e⟩ := e
      have m1 := NewBlock_result e1
      rw [bind_ok] at e
      obtain ⟨⟨⟨bs, d2⟩, g2⟩, e2, e⟩ := e
      have m2 := (Grows.newCaseBlocks (Grows.refl g1) e2).nblocks
      cases e
      obtain ⟨q1, q2, q3⟩ := ih _ _ _ _ _ _ e2
      dsimp only at q1 q2 q3 m1 ⊢
      refine ⟨by simp [q1], ?_, ?_⟩
      · intro b hb
        rcases List.mem_cons.mp hb with hb | hb
        · omega
        · have := q2 b hb
          omega
      · rcases q3 with q3 | ⟨b, hb, hle⟩
        · exact Or.inl q3
        · exact Or.inr ⟨b, hb, by omega⟩

/-- The case blocks made for the clauses of a switch are blocks made since. -/
theorem Keeps.keeps_caseBlocksOwned {a g x g' : IRGenerator} {B : List Nat} [KExt a g x B]
    {l : List CaseClause} {i : Nat} {suffix : String} {d : Option Nat}
    {r : List Nat × Option Nat} (h : Keeps a g B)
    (e : newCaseBlocks l i suffix d x = .ok (r, g')) : ∀ b ∈ r.1, a.nblocks ≤ b := by
  obtain ⟨-, q2, -⟩ := newCaseBlocks_result _ _ _ _ _ _ _ e
  intro b hb
  exact Nat.le_trans (h.keeps_ext : Keeps a x B).nblocks (q2 b hb).1

/-- There is a case block for every clause. -/
theorem newCaseBlocks_inRange {x g' : IRGenerator} {l : List CaseClause} {i : Nat}
    {suffix : String} {d : Option Nat} {r : List Nat × Option Nat}
    (e : newCaseBlocks l i suffix d x = .ok (r, g')) : ∀ j, j < l.length → 0 + j < r.1.length := by
  obtain ⟨q1, -, -⟩ := newCaseBlocks_result _ _ _ _ _ _ _ e
  intro j hj
  omega

/-- A block that is the given one or one made since may be written to. -/
theorem Keeps.keeps_ownedResult {a g x : IRGenerator} {B : List Nat} [KExt a g x B]
    {cur r : Option Nat} [o : OwnedOpt a cur] (h : Keeps a g B)
    (hr : r = cur ∨ ∃ b, r = some b ∧ x.nblocks ≤ b) : OwnedOpt a r := by
  rcases hr with hr | ⟨b, hb, hle⟩
  · rw [hr]
    exact o
  · rw [hb]
    exact ⟨fun c hc => by
      cases hc
      exact Or.inr (Nat.le_trans (h.keeps_ext : Keeps a x B).nblocks hle)⟩

/-- The end block returned by `appendPrologue` may be written to and exists,
and the generator is inside a function. -/
theorem Keeps.keeps_appendPrologueOwned {a g x g' : IRGenerator} {B : List Nat} [KExt a g x B]
    {count : Nat} {sliceArg : Value} {structType : Ty} {r : Value × Value × Value × Nat}
    (h : Keeps a g B) (e : appendPrologue count sliceArg structType x = .ok (r, g')) :
    Owned a r.2.2.2 ∧ InFunc a ∧ r.2.2.2 < g'.nblocks := by
  replace h : Keeps a x B := h.keeps_ext
  unfold Irgen.appendPrologue at e
  simp only [IRGenerator.NewLoad, IRGenerator.NewBin,
    IRGenerator.NewSelect, IRGenerator.NewBr, IRGenerator.NewCondBr] at e
  rw [bind_ok] at e
  obtain ⟨⟨x1, g1⟩, e1, e⟩ := e
  replace h := h.keeps_NewGetElementPtr e1
  rw [bind_ok] at e
  obtain ⟨⟨x2, g2⟩, e2, e⟩ := e
  replace h := h.keeps_NewInst e2
  rw [bind_ok] at e
  obtain ⟨⟨x3, g3⟩, e3, e⟩ := e
  replace h := h.keeps_NewGetElementPtr e3
  rw [bind_ok] at e
  obtain ⟨⟨x4, g4⟩, e4, e⟩ := e
  replace h := h.keeps_NewInst e4
  rw [bind_ok] at e
  obtain ⟨⟨x5, g5⟩, e5, e⟩ := e
  replace h := h.keeps_NewInst e5
  rw [bind_ok] at e
  obtain ⟨⟨x6, g6⟩, e6, e⟩ := e
  replace h := h.keeps_NewICmp e6
  rw [bind_ok] at e
  obtain ⟨⟨x7, g7⟩, e7, e⟩ := e
  have i1 := h.keeps_inFuncNew e7
  replace h := h.keeps_NewBlock e7
  rw [bind_ok] at e
  obtain ⟨⟨x8, g8⟩, e8, e⟩ := e
  replace h := h.keeps_NewBlock e8
  rw [bind_ok] at e
  obtain ⟨⟨x9, g9⟩, e9, e⟩ := e
  have o1 := h.keeps_ownedNew e9
  have m9 := NewBlock_result e9
  rw [bind_ok] at e
  obtain ⟨⟨y1, k1⟩, d1, e⟩ := e
  have n1 := ((Grows.refl g9).NewTerm d1).nblocks
  rw [bind_ok] at e
  obtain ⟨⟨y2, k2⟩, d2, e⟩ := e
  have n2 := ((Grows.refl k1).NewInst d2).nblocks
  rw [bind_ok] at e
  obtain ⟨⟨y3, k3⟩, d3, e⟩ := e
  have n3 := ((Grows.refl k2).NewInst (NewICmp_ok d3)).nblocks
  rw [bind_ok] at e
  obtain ⟨⟨y4, k4⟩, d4, e⟩ := e
  have n4 := ((Grows.refl k3).NewInst d4).nblocks
  rw [bind_ok] at e
  obtain ⟨⟨y5, k5⟩, d5, e⟩ := e
  have n5 := ((Grows.refl k4).NewStore d5).nblocks
  rw [bind_ok] at e
  obtain ⟨⟨y6, k6⟩, d6, e⟩ := e
  have n6 := ((Grows.refl k5).NewTerm d6).nblocks
  cases e
  refine ⟨o1, i1, ?_⟩
  show x9 < k6.nblocks
  omega

theorem Keeps.keeps_appendPrologueBlock {a g x g' : IRGenerator} {B : List Nat} [KExt a g x B]
    {count : Nat} {sliceArg : Value} {structType : Ty} {r : Value × Value × Value × Nat}
    (h : Keeps a g B) (e : appendPrologue count sliceArg structType x = .ok (r, g')) :
    Owned a r.2.2.2 :=
  (h.keeps_appendPrologueOwned e).1

theorem Keeps.keeps_appendPrologueInFunc {a g x g' : IRGenerator} {B : List Nat}
    [KExt a g x B] {count : Nat} {sliceArg : Value} {structType : Ty}
    {r : Value × Value × Value × Nat} (h : Keeps a g B)
    (e : appendPrologue count sliceArg structType x = .ok (r, g')) : InFunc a :=
  (h.keeps_appendPrologueOwned e).2.1

theorem Keeps.keeps_appendPrologueMade {a g x g' : IRGenerator} {B : List Nat} [KExt a g x B]
    {count : Nat} {sliceArg : Value} {structType : Ty} {r : Value × Value × Value × Nat}
    (h : Keeps a g B) (e : appendPrologue count sliceArg structType x = .ok (r, g')) :
    Keeps a g' (r.2.2.2 :: B) :=
  ((h.keeps_appendPrologue e).keeps_more (L := [r.2.2.2]) (fun b hb => by
    rw [List.mem_singleton.mp hb]
    exact (h.keeps_appendPrologueOwned e).2.2)).keeps_sub (fun _ hb => hb)

/-- The generator after the cursor has been restored around a function body:
what the body did is seen from `a` as having touched only new blocks and
the new function `fn`. -/
theorem Keeps.keeps_restore {a y0 y3 y6 : IRGenerator} {B B3 : List Nat} {fn : Nat}
    (hk0 : Keeps a y0 B) (inner : Keeps y3 y6 B3)
    (h3n : y0.nblocks ≤ y3.nblocks) (h3b : y3.currentBB = some y0.nblocks)
    (h3s : y3.symbolTable = y0.symbolTable)
    (h3blocks : ∀ c, c < y0.nblocks → y3.blocks c = y0.blocks c)
    (hfn : a.nfuncs ≤ fn) (h3f : y3.currentFunc = some fn) (h3nf : y0.nfuncs ≤ y3.nfuncs)
    (h3funcs : ∀ f, f ≠ fn → y3.funcs f = y0.funcs f)
    (h3m : y3.module.funcs = y0.module.funcs)
    (h3l : y3.lazyDeclared = y0.lazyDeclared) (h3v : fn < y3.nfuncs)
    (h0l : (∀ d, a.currentFunc = some d → d < a.nfuncs) →
      ∀ p ∈ y0.lazyDeclared, p ∈ a.lazyDeclared ∨ p.2 < fn) :
    Keeps a ((y6.setCurrentFunc y0.currentFunc).setCurrentBB y0.currentBB) B := by
  have hn : y0.nblocks ≤ y6.nblocks := Nat.le_trans h3n inner.nblocks
  refine ⟨Nat.le_trans hk0.nblocks hn, hk0.currentFunc, hk0.cursor, hk0.cursorNone, ?_, ?_, ?_,
    ?_, ?_, ⟨?_, ?_, ?_, ?_, ?_, ?_⟩⟩
  · intro hv c hc
    exact Nat.lt_of_lt_of_le (hk0.cursorValid hv c hc) hn
  · intro c hc hne
    have h1 := hk0.nblocks
    have hc3 : c < y3.nblocks := by omega
    have hne3 : y3.currentBB ≠ some c := by
      rw [h3b]
      intro hh
      cases hh
      omega
    show y6.blocks c = a.blocks c
    rw [inner.blocks c hc3 hne3, h3blocks c (by omega), hk0.blocks c hc hne]
  · intro c hc
    have h1 := hk0.nblocks
    show (y6.blocks c).name = (a.blocks c).name
    rw [inner.names c (by omega), h3blocks c (by omega), hk0.names c hc]
  · intro hs
    show ∀ p ∈ y6.symbolTable, p.2.Type.IsPointer = true
    exact inner.symbols (by rw [h3s]; exact hk0.symbols hs)
  · intro b hb
    exact Nat.lt_of_lt_of_le (hk0.made b hb) hn
  · exact Nat.le_trans hk0.functions.nfuncs (Nat.le_trans h3nf inner.functions.nfuncs)
  · intro f hf
    have h1 := hk0.functions.nfuncs
    show (y6.funcs f).name = (a.funcs f).name
    rw [inner.functions.names f (by omega), h3funcs f (by omega), hk0.functions.names f hf]
  · intro f hf hne
    have h1 := hk0.functions.nfuncs
    have hne3 : y3.currentFunc ≠ some f := by
      rw [h3f]
      intro hh
      cases hh
      omega
    show (y6.funcs f).blocks = (a.funcs f).blocks
    rw [inner.functions.blocks f (by omega) hne3, h3funcs f (by omega),
      hk0.functions.blocks f hf hne]
  · intro f hm
    show f ∈ y6.module.funcs
    exact inner.functions.listed f (by rw [h3m]; exact hk0.functions.listed f hm)
  · intro p hp
    show p ∈ y6.lazyDeclared
    exact inner.functions.logged p (by rw [h3l]; exact hk0.functions.logged p hp)
  · intro hv p hp
    have hv3 : ∀ d, y3.currentFunc = some d → d < y3.nfuncs := by
      intro d hd
      rw [h3f] at hd
      cases hd
      exact h3v
    have h1 := hk0.functions.nfuncs
    rcases inner.functions.declared hv3 p hp with h3 | ⟨l1, l2, l3, l4, l5⟩
    · rw [h3l] at h3
      rcases hk0.functions.declared hv p h3 with ha | ⟨k1, k2, k3, k4, k5⟩
      · exact Or.inl ha
      · rcases h0l hv p h3 with ha | hlt
        · exact Or.inl ha
        · have hne : p.2 ≠ fn := Nat.ne_of_lt hlt
          have hne3 : y3.currentFunc ≠ some p.2 := by
            rw [h3f]
            intro hh
            cases hh
            exact hne rfl
          have hp3 : p.2 < y3.nfuncs := Nat.lt_of_lt_of_le k2 h3nf
          refine Or.inr ⟨k1, Nat.lt_of_lt_of_le hp3 inner.functions.nfuncs, ?_, ?_, ?_⟩
          · show (y6.funcs p.2).name = p.1
            rw [inner.functions.names _ hp3, h3funcs _ hne, k3]
          · show (y6.funcs p.2).blocks = []
            rw [inner.functions.blocks _ hp3 hne3, h3funcs _ hne, k4]
          · show p.2 ∈ y6.module.funcs
            exact inner.functions.listed _ (by rw [h3m]; exact k5)
    · refine Or.inr ⟨?_, l2, l3, l4, l5⟩
      omega

theorem callArguments_keeps (l : List Expression) (ih : ∀ e ∈ l, ExprKept e) :
    ∀ (a x g' : IRGenerator) (B : List Nat) (r : List Value), Keeps a x B →
      callArguments l x = .ok (r, g') → Keeps a g' B := by
  induction l with
  | nil =>
    intro a x g' B r h e
    rw [callArguments_nil_eq] at e
    cases e
    exact h
  | cons arg rest ihl =>
    intro a x g' B r h e
    have ih1 := ih arg (List.mem_cons_self _ _)
    have ihr := ihl (fun e he => ih e (List.mem_cons_of_mem _ he))
    rw [callArguments_cons_eq] at e
    try simp only [IRGenerator.NewAlloca, IRGenerator.NewLoad, IRGenerator.NewBin, IRGenerator.NewICmp, IRGenerator.NewFCmp, IRGenerator.NewGetElementPtr, IRGenerator.funcValue, NewCall_func, IRGenerator.NewCall, IRGenerator.NewZExt, IRGenerator.NewSelect, IRGenerator.NewBr, IRGenerator.NewCondBr, IRGenerator.NewRet, IRGenerator.NewUnreachable, IRGenerator.NewFunc, IRGenerator.NewGlobalDef] at e
    repeat' (first
      | (first | (revert e; with_reducible apply (Keeps.keeps_less ∘ (h.keeps_asResult)); done) | (revert e; with_reducible apply (Keeps.keeps_less ∘ (h.keeps_failWith)); done) | (revert e; with_reducible apply (Keeps.keeps_less ∘ (h.keeps_NewInst)); done) | (revert e; with_reducible apply (Keeps.keeps_less ∘ (h.keeps_NewStore)); done) | (revert e; with_reducible apply (Keeps.keeps_less ∘ (h.keeps_NewTerm)); done) | (revert e; with_reducible apply (Keeps.keeps_less ∘ (h.keeps_NewInstAt)); done) | (revert e; with_reducible apply (Keeps.keeps_less ∘ (h.keeps_NewStoreAt)); done) | (revert e; with_reducible apply (Keeps.keeps_less ∘ (h.keeps_NewTermAt)); done) | (revert e; with_reducible apply (Keeps.keeps_less ∘ (h.keeps_NewBlock)); done) | (revert e; with_reducible apply (Keeps.keeps_less ∘ (h.keeps_NewBlockIn)); done) | (revert e; with_reducible apply (Keeps.keeps_less ∘ (ih1.keeps h)); done) | (revert e; with_reducible apply (Keeps.keeps_less ∘ (ihr _ _ _ _ _ h.keeps_ext)); done) | fail)
      | (apply stepWith e; (focus (with_reducible apply (@ite_ok _ _ _ _ _ _); done)); intro e2
         clear e
         rcases e2 with ⟨hc, e⟩ | ⟨hc, e⟩ <;>
         try (apply stepWith hc; (focus (with_reducible apply (h.keeps_inFuncNot); done)); intro i1))
      | (simp only [bind_assoc, pure_bind] at e)
      | (rw [bind_ok] at e
         obtain ⟨⟨x1, g1⟩, e1, e⟩ := e
         try dsimp only at e
         try (apply stepWith e1; (focus (with_reducible apply (h.keeps_inFuncNew); done)); intro f0)
         try (apply stepWith e1; (focus (with_reducible apply (h.keeps_ownedNew); done)); intro f1)
         try (apply stepWith e1; (focus (with_reducible apply (ptrVal_of_NewInst); done)); intro f2)
         first
           | (apply stepWith e1; (focus (with_reducible apply (h.keeps_NewInst); done)); clear h; intro h) | (apply stepWith e1; (focus (with_reducible apply (h.keeps_NewStore); done)); clear h; intro h) | (apply stepWith e1; (focus (with_reducible apply (h.keeps_NewTerm); done)); clear h; intro h) | (apply stepWith e1; (focus (with_reducible apply (h.keeps_NewInstAt); done)); clear h; intro h) | (apply stepWith e1; (focus (with_reducible apply (h.keeps_NewStoreAt); done)); clear h; intro h) | (apply stepWith e1; (focus (with_reducible apply (h.keeps_NewTermAt); done)); clear h; intro h) | (apply stepWith e1; (focus (with_reducible apply (h.keeps_NewBlock); done)); clear h; intro h) | (apply stepWith e1; (focus (with_reducible apply (h.keeps_NewBlockIn); done)); clear h; intro h) | (apply stepWith e1; (focus (with_reducible apply (ih1.keeps h); done)); clear h; intro h) | (apply stepWith e1; (focus (with_reducible apply (ihr _ _ _ _ _ h.keeps_ext); done)); clear h; intro h)
           | (cases e1)
           | (refine Keeps.keeps_cutFrom h (b := g1) ?_ ?_ <;>
               first | (intro h2; clear h e1; rename' h2 => h) | (clear e; rename' e1 => e))
           | fail)
      | (split at e <;>
         try (rename_i heq
              try (apply stepWith heq; (focus (with_reducible apply (h.keeps_inFunc); done)); intro i2)
              try (apply stepWith heq; (focus (with_reducible apply (h.keeps_curFunc); done)); intro i3)
              try (first | (apply stepWith heq; (focus (with_reducible apply (h.keeps_NewInst); done)); clear h; intro h) | (apply stepWith heq; (focus (with_reducible apply (h.keeps_NewStore); done)); clear h; intro h) | (apply stepWith heq; (focus (with_reducible apply (h.keeps_NewTerm); done)); clear h; intro h) | (apply stepWith heq; (focus (with_reducible apply (h.keeps_NewInstAt); done)); clear h; intro h) | (apply stepWith heq; (focus (with_reducible apply (h.keeps_NewStoreAt); done)); clear h; intro h) | (apply stepWith heq; (focus (with_reducible apply (h.keeps_NewTermAt); done)); clear h; intro h) | (apply stepWith heq; (focus (with_reducible apply (h.keeps_NewBlock); done)); clear h; intro h) | (apply stepWith heq; (focus (with_reducible apply (h.keeps_NewBlockIn); done)); clear h; intro h) | (apply stepWith heq; (focus (with_reducible apply (ih1.keeps h); done)); clear h; intro h) | (apply stepWith heq; (focus (with_reducible apply (ihr _ _ _ _ _ h.keeps_ext); done)); clear h; intro h) | fail)))
      | (cases e; first | done | exact Keeps.keeps_less (Keeps.keeps_ext h) | fail)
      | (dsimp only at e)
      | fail)

theorem Keeps.keeps_callArguments {l : List Expression} (ih : ∀ e ∈ l, ExprKept e) {a g x g' : IRGenerator}
    {B : List Nat} [KExt a g x B] {r : List Value} (h : Keeps a g B)
    (e : callArguments l x = .ok (r, g')) : Keeps a g' B :=
  callArguments_keeps l ih a x g' B r h.keeps_ext e

theorem appendElements_keeps (l : List Expression) (ih : ∀ e ∈ l, ExprKept e) :
    ∀ (i : Nat) (currentLen sliceArg : Value) (structType elementType : Ty) (a x g' : IRGenerator) (B : List Nat) (r : Unit), Keeps a x B →
      appendElements l i currentLen sliceArg structType elementType x = .ok (r, g') → Keeps a g' B := by
  induction l with
  | nil =>
    intro i currentLen sliceArg structType elementType a x g' B r h e
    rw [appendElements_nil_eq] at e
    cases e
    exact h
  | cons argExpr rest ihl =>
    intro i currentLen sliceArg structType elementType a x g' B r h e
    have ih1 := ih argExpr (List.mem_cons_self _ _)
    have ihr := ihl (fun e he => ih e (List.mem_cons_of_mem _ he))
    rw [appendElements_cons_eq] at e
    try simp only [IRGenerator.NewAlloca, IRGenerator.NewLoad, IRGenerator.NewBin, IRGenerator.NewICmp, IRGenerator.NewFCmp, IRGenerator.NewGetElementPtr, IRGenerator.funcValue, NewCall_func, IRGenerator.NewCall, IRGenerator.NewZExt, IRGenerator.NewSelect, IRGenerator.NewBr, IRGenerator.NewCondBr, IRGenerator.NewRet, IRGenerator.NewUnreachable, IRGenerator.NewFunc, IRGenerator.NewGlobalDef] at e
    repeat' (first
      | (first | (revert e; with_reducible apply (Keeps.keeps_less ∘ (h.keeps_asResult)); done) | (revert e; with_reducible apply (Keeps.keeps_less ∘ (h.keeps_failWith)); done) | (revert e; with_reducible apply (Keeps.keeps_less ∘ (h.keeps_NewInst)); done) | (revert e; with_reducible apply (Keeps.keeps_less ∘ (h.keeps_NewStore)); done) | (revert e; with_reducible apply (Keeps.keeps_less ∘ (h.keeps_NewTerm)); done) | (revert e; with_reducible apply (Keeps.keeps_less ∘ (h.keeps_NewInstAt)); done) | (revert e; with_reducible apply (Keeps.keeps_less ∘ (h.keeps_NewStoreAt)); done) | (revert e; with_reducible apply (Keeps.keeps_less ∘ (h.keeps_NewTermAt)); done) | (revert e; with_reducible apply (Keeps.keeps_less ∘ (h.keeps_NewBlock)); done) | (revert e; with_reducible apply (Keeps.keeps_less ∘ (h.keeps_NewBlockIn)); done) | (revert e; with_reducible apply (Keeps.keeps_less ∘ (ih1.keeps h)); done) | (revert e; with_reducible apply (Keeps.keeps_less ∘ (ihr _ _ _ _ _ _ _ _ _ _ h.keeps_ext)); done) | (revert e; with_reducible apply (Keeps.keeps_less ∘ (h.keeps_appendElement)); done) | fail)
      | (apply stepWith e; (focus (with_reducible apply (@ite_ok _ _ _ _ _ _); done)); intro e2
         clear e
         rcases e2 with ⟨hc, e⟩ | ⟨hc, e⟩ <;>
         try (apply stepWith hc; (focus (with_reducible apply (h.keeps_inFuncNot); done)); intro i1))
      | (simp only [bind_assoc, pure_bind] at e)
      | (rw [bind_ok] at e
         obtain ⟨⟨x1, g1⟩, e1, e⟩ := e
         try dsimp only at e
         try (apply stepWith e1; (focus (with_reducible apply (h.keeps_inFuncNew); done)); intro f0)
         try (apply stepWith e1; (focus (with_reducible apply (h.keeps_ownedNew); done)); intro f1)
         try (apply stepWith e1; (focus (with_reducible apply (ptrVal_of_NewInst); done)); intro f2)
         first
           | (apply stepWith e1; (focus (with_reducible apply (h.keeps_NewInst); done)); clear h; intro h) | (apply stepWith e1; (focus (with_reducible apply (h.keeps_NewStore); done)); clear h; intro h) | (apply stepWith e1; (focus (with_reducible apply (h.keeps_NewTerm); done)); clear h; intro h) | (apply stepWith e1; (focus (with_reducible apply (h.keeps_NewInstAt); done)); clear h; intro h) | (apply stepWith e1; (focus (with_reducible apply (h.keeps_NewStoreAt); done)); clear h; intro h) | (apply stepWith e1; (focus (with_reducible apply (h.keeps_NewTermAt); done)); clear h; intro h) | (apply stepWith e1; (focus (with_reducible apply (h.keeps_NewBlock); done)); clear h; intro h) | (apply stepWith e1; (focus (with_reducible apply (h.keeps_NewBlockIn); done)); clear h; intro h) | (apply stepWith e1; (focus (with_reducible apply (ih1.keeps h); done)); clear h; intro h) | (apply stepWith e1; (focus (with_reducible apply (ihr _ _ _ _ _ _ _ _ _ _ h.keeps_ext); done)); clear h; intro h) | (apply stepWith e1; (focus (with_reducible apply (h.keeps_appendElement); done)); clear h; intro h)
           | (cases e1)
           | (refine Keeps.keeps_cutFrom h (b := g1) ?_ ?_ <;>
               first | (intro h2; clear h e1; rename' h2 => h) | (clear e; rename' e1 => e))
           | fail)
      | (split at e <;>
         try (rename_i heq
              try (apply stepWith heq; (focus (with_reducible apply (h.keeps_inFunc); done)); intro i2)
              try (apply stepWith heq; (focus (with_reducible apply (h.keeps_curFunc); done)); intro i3)
              try (first | (apply stepWith heq; (focus (with_reducible apply (h.keeps_NewInst); done)); clear h; intro h) | (apply stepWith heq; (focus (with_reducible apply (h.keeps_NewStore); done)); clear h; intro h) | (apply stepWith heq; (focus (with_reducible apply (h.keeps_NewTerm); done)); clear h; intro h) | (apply stepWith heq; (focus (with_reducible apply (h.keeps_NewInstAt); done)); clear h; intro h) | (apply stepWith heq; (focus (with_reducible apply (h.keeps_NewStoreAt); done)); clear h; intro h) | (apply stepWith heq; (focus (with_reducible apply (h.keeps_NewTermAt); done)); clear h; intro h) | (apply stepWith heq; (focus (with_reducible apply (h.keeps_NewBlock); done)); clear h; intro h) | (apply stepWith heq; (focus (with_reducible apply (h.keeps_NewBlockIn); done)); clear h; intro h) | (apply stepWith heq; (focus (with_reducible apply (ih1.keeps h); done)); clear h; intro h) | (apply stepWith heq; (focus (with_reducible apply (ihr _ _ _ _ _ _ _ _ _ _ h.keeps_ext); done)); clear h; intro h) | (apply stepWith heq; (focus (with_reducible apply (h.keeps_appendElement); done)); clear h; intro h) | fail)))
      | (cases e; first | done | exact Keeps.keeps_less (Keeps.keeps_ext h) | fail)
      | (dsimp only at e)
      | fail)

theorem Keeps.keeps_appendElements {l : List Expression} (ih : ∀ e ∈ l, ExprKept e) {a g x g' : IRGenerator}
    {B : List Nat} [KExt a g x B] {i : Nat} {currentLen sliceArg : Value} {structType elementType : Ty} {r : Unit} (h : Keeps a g B)
    (e : appendElements l i currentLen sliceArg structType elementType x = .ok (r, g')) : Keeps a g' B :=
  appendElements_keeps l ih _ _ _ _ _ a x g' B r h.keeps_ext e

theorem printfArguments_keeps (l : List Expression) (ih : ∀ e ∈ l, ExprKept e) :
    ∀ (a x g' : IRGenerator) (B : List Nat) (r : List String × List Value), Keeps a x B →
      printfArguments l x = .ok (r, g') → Keeps a g' B := by
  induction l with
  | nil =>
    intro a x g' B r h e
    rw [printfArguments_nil_eq] at e
    cases e
    exact h
  | cons arg rest ihl =>
    intro a x g' B r h e
    have ih1 := ih arg (List.mem_cons_self _ _)
    have ihr := ihl (fun e he => ih e (List.mem_cons_of_mem _ he))
    rw [printfArguments_cons_eq] at e
    try simp only [IRGenerator.NewAlloca, IRGenerator.NewLoad, IRGenerator.NewBin, IRGenerator.NewICmp, IRGenerator.NewFCmp, IRGenerator.NewGetElementPtr, IRGenerator.funcValue, NewCall_func, IRGenerator.NewCall, IRGenerator.NewZExt, IRGenerator.NewSelect, IRGenerator.NewBr, IRGenerator.NewCondBr, IRGenerator.NewRet, IRGenerator.NewUnreachable, IRGenerator.NewFunc, IRGenerator.NewGlobalDef] at e
    repeat' (first
      | (first | (revert e; with_reducible apply (Keeps.keeps_less ∘ (h.keeps_asResult)); done) | (revert e; with_reducible apply (Keeps.keeps_less ∘ (h.keeps_failWith)); done) | (revert e; with_reducible apply (Keeps.keeps_less ∘ (h.keeps_NewInst)); done) | (revert e; with_reducible apply (Keeps.keeps_less ∘ (h.keeps_NewStore)); done) | (revert e; with_reducible apply (Keeps.keeps_less ∘ (h.keeps_NewTerm)); done) | (revert e; with_reducible apply (Keeps.keeps_less ∘ (h.keeps_NewInstAt)); done) | (revert e; with_reducible apply (Keeps.keeps_less ∘ (h.keeps_NewStoreAt)); done) | (revert e; with_reducible apply (Keeps.keeps_less ∘ (h.keeps_NewTermAt)); done) | (revert e; with_reducible apply (Keeps.keeps_less ∘ (h.keeps_NewBlock)); done) | (revert e; with_reducible apply (Keeps.keeps_less ∘ (h.keeps_NewBlockIn)); done) | (revert e; with_reducible apply (Keeps.keeps_less ∘ (ih1.keeps h)); done) | (revert e; with_reducible apply (Keeps.keeps_less ∘ (ihr _ _ _ _ _ h.keeps_ext)); done) | (revert e; with_reducible apply (Keeps.keeps_less ∘ (h.keeps_printfArgument)); done) | fail)
      | (apply stepWith e; (focus (with_reducible apply (@ite_ok _ _ _ _ _ _); done)); intro e2
         clear e
         rcases e2 with ⟨hc, e⟩ | ⟨hc, e⟩ <;>
         try (apply stepWith hc; (focus (with_reducible apply (h.keeps_inFuncNot); done)); intro i1))
      | (simp only [bind_assoc, pure_bind] at e)
      | (rw [bind_ok] at e
         obtain ⟨⟨x1, g1⟩, e1, e⟩ := e
         try dsimp only at e
         try (apply stepWith e1; (focus (with_reducible apply (h.keeps_inFuncNew); done)); intro f0)
         try (apply stepWith e1; (focus (with_reducible apply (h.keeps_ownedNew); done)); intro f1)
         try (apply stepWith e1; (focus (with_reducible apply (ptrVal_of_NewInst); done)); intro f2)
         first
           | (apply stepWith e1; (focus (with_reducible apply (h.keeps_NewInst); done)); clear h; intro h) | (apply stepWith e1; (focus (with_reducible apply (h.keeps_NewStore); done)); clear h; intro h) | (apply stepWith e1; (focus (with_reducible apply (h.keeps_NewTerm); done)); clear h; intro h) | (apply stepWith e1; (focus (with_reducible apply (h.keeps_NewInstAt); done)); clear h; intro h) | (apply stepWith e1; (focus (with_reducible apply (h.keeps_NewStoreAt); done)); clear h; intro h) | (apply stepWith e1; (focus (with_reducible apply (h.keeps_NewTermAt); done)); clear h; intro h) | (apply stepWith e1; (focus (with_reducible apply (h.keeps_NewBlock); done)); clear h; intro h) | (apply stepWith e1; (focus (with_reducible apply (h.keeps_NewBlockIn); done)); clear h; intro h) | (apply stepWith e1; (focus (with_reducible apply (ih1.keeps h); done)); clear h; intro h) | (apply stepWith e1; (focus (with_reducible apply (ihr _ _ _ _ _ h.keeps_ext); done)); clear h; intro h) | (apply stepWith e1; (focus (with_reducible apply (h.keeps_printfArgument); done)); clear h; intro h)
           | (cases e1)
           | (refine Keeps.keeps_cutFrom h (b := g1) ?_ ?_ <;>
               first | (intro h2; clear h e1; rename' h2 => h) | (clear e; rename' e1 => e))
           | fail)
      | (split at e <;>
         try (rename_i heq
              try (apply stepWith heq; (focus (with_reducible apply (h.keeps_inFunc); done)); intro i2)
              try (apply stepWith heq; (focus (with_reducible apply (h.keeps_curFunc); done)); intro i3)
              try (first | (apply stepWith heq; (focus (with_reducible apply (h.keeps_NewInst); done)); clear h; intro h) | (apply stepWith heq; (focus (with_reducible apply (h.keeps_NewStore); done)); clear h; intro h) | (apply stepWith heq; (focus (with_reducible apply (h.keeps_NewTerm); done)); clear h; intro h) | (apply stepWith heq; (focus (with_reducible apply (h.keeps_NewInstAt); done)); clear h; intro h) | (apply stepWith heq; (focus (with_reducible apply (h.keeps_NewStoreAt); done)); clear h; intro h) | (apply stepWith heq; (focus (with_reducible apply (h.keeps_NewTermAt); done)); clear h; intro h) | (apply stepWith heq; (focus (with_reducible apply (h.keeps_NewBlock); done)); clear h; intro h) | (apply stepWith heq; (focus (with_reducible apply (h.keeps_NewBlockIn); done)); clear h; intro h) | (apply stepWith heq; (focus (with_reducible apply (ih1.keeps h); done)); clear h; intro h) | (apply stepWith heq; (focus (with_reducible apply (ihr _ _ _ _ _ h.keeps_ext); done)); clear h; intro h) | (apply stepWith heq; (focus (with_reducible apply (h.keeps_printfArgument); done)); clear h; intro h) | fail)))
      | (cases e; first | done | exact Keeps.keeps_less (Keeps.keeps_ext h) | fail)
      | (dsimp only at e)
      | fail)

theorem Keeps.keeps_printfArguments {l : List Expression} (ih : ∀ e ∈ l, ExprKept e) {a g x g' : IRGenerator}
    {B : List Nat} [KExt a g x B] {r : List String × List Value} (h : Keeps a g B)
    (e : printfArguments l x = .ok (r, g')) : Keeps a g' B :=
  printfArguments_keeps l ih a x g' B r h.keeps_ext e

theorem arrayElements_keeps (l : List Expression) (ih : ∀ e ∈ l, ExprKept e) :
    ∀ (i : Nat) (elementType arrayType : Ty) (arrayAlloca : Value) (a x g' : IRGenerator) (B : List Nat) (r : Unit), Keeps a x B →
      arrayElements l i elementType arrayType arrayAlloca x = .ok (r, g') → Keeps a g' B := by
  induction l with
  | nil =>
    intro i elementType arrayType arrayAlloca a x g' B r h e
    rw [arrayElements_nil_eq] at e
    cases e
    exact h
  | cons element rest ihl =>
    intro i elementType arrayType arrayAlloca a x g' B r h e
    have ih1 := ih element (List.mem_cons_self _ _)
    have ihr := ihl (fun e he => ih e (List.mem_cons_of_mem _ he))
    rw [arrayElements_cons_eq] at e
    try simp only [IRGenerator.NewAlloca, IRGenerator.NewLoad, IRGenerator.NewBin, IRGenerator.NewICmp, IRGenerator.NewFCmp, IRGenerator.NewGetElementPtr, IRGenerator.funcValue, NewCall_func, IRGenerator.NewCall, IRGenerator.NewZExt, IRGenerator.NewSelect, IRGenerator.NewBr, IRGenerator.NewCondBr, IRGenerator.NewRet, IRGenerator.NewUnreachable, IRGenerator.NewFunc, IRGenerator.NewGlobalDef] at e
    repeat' (first
      | (first | (revert e; with_reducible apply (Keeps.keeps_less ∘ (h.keeps_asResult)); done) | (revert e; with_reducible apply (Keeps.keeps_less ∘ (h.keeps_failWith)); done) | (revert e; with_reducible apply (Keeps.keeps_less ∘ (h.keeps_NewInst)); done) | (revert e; with_reducible apply (Keeps.keeps_less ∘ (h.keeps_NewStore)); done) | (revert e; with_reducible apply (Keeps.keeps_less ∘ (h.keeps_NewTerm)); done) | (revert e; with_reducible apply (Keeps.keeps_less ∘ (h.keeps_NewInstAt)); done) | (revert e; with_reducible apply (Keeps.keeps_less ∘ (h.keeps_NewStoreAt)); done) | (revert e; with_reducible apply (Keeps.keeps_less ∘ (h.keeps_NewTermAt)); done) | (revert e; with_reducible apply (Keeps.keeps_less ∘ (h.keeps_NewBlock)); done) | (revert e; with_reducible apply (Keeps.keeps_less ∘ (h.keeps_NewBlockIn)); done) | (revert e; with_reducible apply (Keeps.keeps_less ∘ (ih1.keeps h)); done) | (revert e; with_reducible apply (Keeps.keeps_less ∘ (ihr _ _ _ _ _ _ _ _ _ h.keeps_ext)); done) | (revert e; with_reducible apply (Keeps.keeps_less ∘ (h.keeps_arrayElement)); done) | fail)
      | (apply stepWith e; (focus (with_reducible apply (@ite_ok _ _ _ _ _ _); done)); intro e2
         clear e
         rcases e2 with ⟨hc, e⟩ | ⟨hc, e⟩ <;>
         try (apply stepWith hc; (focus (with_reducible apply (h.keeps_inFuncNot); done)); intro i1))
      | (simp only [bind_assoc, pure_bind] at e)
      | (rw [bind_ok] at e
         obtain ⟨⟨x1, g1⟩, e1, e⟩ := e
         try dsimp only at e
         try (apply stepWith e1; (focus (with_reducible apply (h.keeps_inFuncNew); done)); intro f0)
         try (apply stepWith e1; (focus (with_reducible apply (h.keeps_ownedNew); done)); intro f1)
         try (apply stepWith e1; (focus (with_reducible apply (ptrVal_of_NewInst); done)); intro f2)
         first
           | (apply stepWith e1; (focus (with_reducible apply (h.keeps_NewInst); done)); clear h; intro h) | (apply stepWith e1; (focus (with_reducible apply (h.keeps_NewStore); done)); clear h; intro h) | (apply stepWith e1; (focus (with_reducible apply (h.keeps_NewTerm); done)); clear h; intro h) | (apply stepWith e1; (focus (with_reducible apply (h.keeps_NewInstAt); done)); clear h; intro h) | (apply stepWith e1; (focus (with_reducible apply (h.keeps_NewStoreAt); done)); clear h; intro h) | (apply stepWith e1; (focus (with_reducible apply (h.keeps_NewTermAt); done)); clear h; intro h) | (apply stepWith e1; (focus (with_reducible apply (h.keeps_NewBlock); done)); clear h; intro h) | (apply stepWith e1; (focus (with_reducible apply (h.keeps_NewBlockIn); done)); clear h; intro h) | (apply stepWith e1; (focus (with_reducible apply (ih1.keeps h); done)); clear h; intro h) | (apply stepWith e1; (focus (with_reducible apply (ihr _ _ _ _ _ _ _ _ _ h.keeps_ext); done)); clear h; intro h) | (apply stepWith e1; (focus (with_reducible apply (h.keeps_arrayElement); done)); clear h; intro h)
           | (cases e1)
           | (refine Keeps.keeps_cutFrom h (b := g1) ?_ ?_ <;>
               first | (intro h2; clear h e1; rename' h2 => h) | (clear e; rename' e1 => e))
           | fail)
      | (split at e <;>
         try (rename_i heq
              try (apply stepWith heq; (focus (with_reducible apply (h.keeps_inFunc); done)); intro i2)
              try (apply stepWith heq; (focus (with_reducible apply (h.keeps_curFunc); done)); intro i3)
              try (first | (apply stepWith heq; (focus (with_reducible apply (h.keeps_NewInst); done)); clear h; intro h) | (apply stepWith heq; (focus (with_reducible apply (h.keeps_NewStore); done)); clear h; intro h) | (apply stepWith heq; (focus (with_reducible apply (h.keeps_NewTerm); done)); clear h; intro h) | (apply stepWith heq; (focus (with_reducible apply (h.keeps_NewInstAt); done)); clear h; intro h) | (apply stepWith heq; (focus (with_reducible apply (h.keeps_NewStoreAt); done)); clear h; intro h) | (apply stepWith heq; (focus (with_reducible apply (h.keeps_NewTermAt); done)); clear h; intro h) | (apply stepWith heq; (focus (with_reducible apply (h.keeps_NewBlock); done)); clear h; intro h) | (apply stepWith heq; (focus (with_reducible apply (h.keeps_NewBlockIn); done)); clear h; intro h) | (apply stepWith heq; (focus (with_reducible apply (ih1.keeps h); done)); clear h; intro h) | (apply stepWith heq; (focus (with_reducible apply (ihr _ _ _ _ _ _ _ _ _ h.keeps_ext); done)); clear h; intro h) | (apply stepWith heq; (focus (with_reducible apply (h.keeps_arrayElement); done)); clear h; intro h) | fail)))
      | (cases e; first | done | exact Keeps.keeps_less (Keeps.keeps_ext h) | fail)
      | (dsimp only at e)
      | fail)

theorem Keeps.keeps_arrayElements {l : List Expression} (ih : ∀ e ∈ l, ExprKept e) {a g x g' : IRGenerator}
    {B : List Nat} [KExt a g x B] {i : Nat} {elementType arrayType : Ty} {arrayAlloca : Value} {r : Unit} (h : Keeps a g B)
    (e : arrayElements l i elementType arrayType arrayAlloca x = .ok (r, g')) : Keeps a g' B :=
  arrayElements_keeps l ih _ _ _ _ a x g' B r h.keeps_ext e

theorem taggedSwitchValues_keeps (l : List Expression) (ih : ∀ e ∈ l, ExprKept e) :
    ∀ (i : Nat) (switchValue : Value) (caseBlocks : List Nat) (currentBlock : Option Nat) (a x g' : IRGenerator) (B : List Nat) (r : Option Nat) [OwnedOpt a currentBlock], Keeps a x B →
      taggedSwitchValues l i switchValue caseBlocks currentBlock x = .ok (r, g') → Keeps a g' B := by
  induction l with
  | nil =>
    intro i switchValue caseBlocks currentBlock a x g' B r _ h e
    rw [taggedSwitchValues_nil_eq] at e
    cases e
    exact h
  | cons caseValue rest ihl =>
    intro i switchValue caseBlocks currentBlock a x g' B r _ h e
    have ih1 := ih caseValue (List.mem_cons_self _ _)
    have ihr := ihl (fun e he => ih e (List.mem_cons_of_mem _ he))
    rw [taggedSwitchValues_cons_eq] at e
    try simp only [IRGenerator.NewAlloca, IRGenerator.NewLoad, IRGenerator.NewBin, IRGenerator.NewICmp, IRGenerator.NewFCmp, IRGenerator.NewGetElementPtr, IRGenerator.funcValue, NewCall_func, IRGenerator.NewCall, IRGenerator.NewZExt, IRGenerator.NewSelect, IRGenerator.NewBr, IRGenerator.NewCondBr, IRGenerator.NewRet, IRGenerator.NewUnreachable, IRGenerator.NewFunc, IRGenerator.NewGlobalDef] at e
    repeat' (first
      | (first | (revert e; with_reducible apply (Keeps.keeps_less ∘ (h.keeps_asResult)); done) | (revert e; with_reducible apply (Keeps.keeps_less ∘ (h.keeps_failWith)); done) | (revert e; with_reducible apply (Keeps.keeps_less ∘ (h.keeps_NewInst)); done) | (revert e; with_reducible apply (Keeps.keeps_less ∘ (h.keeps_NewStore)); done) | (revert e; with_reducible apply (Keeps.keeps_less ∘ (h.keeps_NewTerm)); done) | (revert e; with_reducible apply (Keeps.keeps_less ∘ (h.keeps_NewInstAt)); done) | (revert e; with_reducible apply (Keeps.keeps_less ∘ (h.keeps_NewStoreAt)); done) | (revert e; with_reducible apply (Keeps.keeps_less ∘ (h.keeps_NewTermAt)); done) | (revert e; with_reducible apply (Keeps.keeps_less ∘ (h.keeps_NewBlock)); done) | (revert e; with_reducible apply (Keeps.keeps_less ∘ (h.keeps_NewBlockIn)); done) | (revert e; with_reducible apply (Keeps.keeps_less ∘ (ih1.keeps h)); done) | (revert e; with_reducible apply (Keeps.keeps_less ∘ (ihr _ _ _ _ _ _ _ _ _ h.keeps_ext)); done) | fail)
      | (apply stepWith e; (focus (with_reducible apply (@ite_ok _ _ _ _ _ _); done)); intro e2
         clear e
         rcases e2 with ⟨hc, e⟩ | ⟨hc, e⟩ <;>
         try (apply stepWith hc; (focus (with_reducible apply (h.keeps_inFuncNot); done)); intro i1))
      | (simp only [bind_assoc, pure_bind] at e)
      | (rw [bind_ok] at e
         obtain ⟨⟨x1, g1⟩, e1, e⟩ := e
         try dsimp only at e
         try (apply stepWith e1; (focus (with_reducible apply (h.keeps_inFuncNew); done)); intro f0)
         try (apply stepWith e1; (focus (with_reducible apply (h.keeps_ownedNew); done)); intro f1)
         try (apply stepWith e1; (focus (with_reducible apply (ptrVal_of_NewInst); done)); intro f2)
         first
           | (apply stepWith e1; (focus (with_reducible apply (h.keeps_NewInst); done)); clear h; intro h) | (apply stepWith e1; (focus (with_reducible apply (h.keeps_NewStore); done)); clear h; intro h) | (apply stepWith e1; (focus (with_reducible apply (h.keeps_NewTerm); done)); clear h; intro h) | (apply stepWith e1; (focus (with_reducible apply (h.keeps_NewInstAt); done)); clear h; intro h) | (apply stepWith e1; (focus (with_reducible apply (h.keeps_NewStoreAt); done)); clear h; intro h) | (apply stepWith e1; (focus (with_reducible apply (h.keeps_NewTermAt); done)); clear h; intro h) | (apply stepWith e1; (focus (with_reducible apply (h.keeps_NewBlock); done)); clear h; intro h) | (apply stepWith e1; (focus (with_reducible apply (h.keeps_NewBlockIn); done)); clear h; intro h) | (apply stepWith e1; (focus (with_reducible apply (ih1.keeps h); done)); clear h; intro h) | (apply stepWith e1; (focus (with_reducible apply (ihr _ _ _ _ _ _ _ _ _ h.keeps_ext); done)); clear h; intro h)
           | (cases e1)
           | (refine Keeps.keeps_cutFrom h (b := g1) ?_ ?_ <;>
               first | (intro h2; clear h e1; rename' h2 => h) | (clear e; rename' e1 => e))
           | fail)
      | (split at e <;>
         try (rename_i heq
              try (apply stepWith heq; (focus (with_reducible apply (h.keeps_inFunc); done)); intro i2)
              try (apply stepWith heq; (focus (with_reducible apply (h.keeps_curFunc); done)); intro i3)
              try (first | (apply stepWith heq; (focus (with_reducible apply (h.keeps_NewInst); done)); clear h; intro h) | (apply stepWith heq; (focus (with_reducible apply (h.keeps_NewStore); done)); clear h; intro h) | (apply stepWith heq; (focus (with_reducible apply (h.keeps_NewTerm); done)); clear h; intro h) | (apply stepWith heq; (focus (with_reducible apply (h.keeps_NewInstAt); done)); clear h; intro h) | (apply stepWith heq; (focus (with_reducible apply (h.keeps_NewStoreAt); done)); clear h; intro h) | (apply stepWith heq; (focus (with_reducible apply (h.keeps_NewTermAt); done)); clear h; intro h) | (apply stepWith heq; (focus (with_reducible apply (h.keeps_NewBlock); done)); clear h; intro h) | (apply stepWith heq; (focus (with_reducible apply (h.keeps_NewBlockIn); done)); clear h; intro h) | (apply stepWith heq; (focus (with_reducible apply (ih1.keeps h); done)); clear h; intro h) | (apply stepWith heq; (focus (with_reducible apply (ihr _ _ _ _ _ _ _ _ _ h.keeps_ext); done)); clear h; intro h) | fail)))
      | (cases e; first | done | exact Keeps.keeps_less (Keeps.keeps_ext h) | fail)
      | (dsimp only at e)
      | fail)

theorem Keeps.keeps_taggedSwitchValues {l : List Expression} (ih : ∀ e ∈ l, ExprKept e) {a g x g' : IRGenerator}
    {B : List Nat} [KExt a g x B] {i : Nat} {switchValue : Value} {caseBlocks : List Nat} {currentBlock : Option Nat} [OwnedOpt a currentBlock] {r : Option Nat} (h : Keeps a g B)
    (e : taggedSwitchValues l i switchValue caseBlocks currentBlock x = .ok (r, g')) : Keeps a g' B :=
  taggedSwitchValues_keeps l ih _ _ _ _ a x g' B r h.keeps_ext e

theorem booleanSwitchValues_keeps (l : List Expression) (ih : ∀ e ∈ l, ExprKept e) :
    ∀ (j : Nat) (condition : Option Value) (currentBlock : Option Nat) (a x g' : IRGenerator) (B : List Nat) (r : Option Value) [OwnedOpt a currentBlock], Keeps a x B →
      booleanSwitchValues l j condition currentBlock x = .ok (r, g') → Keeps a g' B := by
  induction l with
  | nil =>
    intro j condition currentBlock a x g' B r _ h e
    rw [booleanSwitchValues_nil_eq] at e
    cases e
    exact h
  | cons caseValue rest ihl =>
    intro j condition currentBlock a x g' B r _ h e
    have ih1 := ih caseValue (List.mem_cons_self _ _)
    have ihr := ihl (fun e he => ih e (List.mem_cons_of_mem _ he))
    rw [booleanSwitchValues_cons_eq] at e
    try simp only [IRGenerator.NewAlloca, IRGenerator.NewLoad, IRGenerator.NewBin, IRGenerator.NewICmp, IRGenerator.NewFCmp, IRGenerator.NewGetElementPtr, IRGenerator.funcValue, NewCall_func, IRGenerator.NewCall, IRGenerator.NewZExt, IRGenerator.NewSelect, IRGenerator.NewBr, IRGenerator.NewCondBr, IRGenerator.NewRet, IRGenerator.NewUnreachable, IRGenerator.NewFunc, IRGenerator.NewGlobalDef] at e
    repeat' (first
      | (first | (revert e; with_reducible apply (Keeps.keeps_less ∘ (h.keeps_asResult)); done) | (revert e; with_reducible apply (Keeps.keeps_less ∘ (h.keeps_failWith)); done) | (revert e; with_reducible apply (Keeps.keeps_less ∘ (h.keeps_NewInst)); done) | (revert e; with_reducible apply (Keeps.keeps_less ∘ (h.keeps_NewStore)); done) | (revert e; with_reducible apply (Keeps.keeps_less ∘ (h.keeps_NewTerm)); done) | (revert e; with_reducible apply (Keeps.keeps_less ∘ (h.keeps_NewInstAt)); done) | (revert e; with_reducible apply (Keeps.keeps_less ∘ (h.keeps_NewStoreAt)); done) | (revert e; with_reducible apply (Keeps.keeps_less ∘ (h.keeps_NewTermAt)); done) | (revert e; with_reducible apply (Keeps.keeps_less ∘ (h.keeps_NewBlock)); done) | (revert e; with_reducible apply (Keeps.keeps_less ∘ (h.keeps_NewBlockIn)); done) | (revert e; with_reducible apply (Keeps.keeps_less ∘ (ih1.keeps h)); done) | (revert e; with_reducible apply (Keeps.keeps_less ∘ (ihr _ _ _ _ _ _ _ _ h.keeps_ext)); done) | fail)
      | (apply stepWith e; (focus (with_reducible apply (@ite_ok _ _ _ _ _ _); done)); intro e2
         clear e
         rcases e2 with ⟨hc, e⟩ | ⟨hc, e⟩ <;>
         try (apply stepWith hc; (focus (with_reducible apply (h.keeps_inFuncNot); done)); intro i1))
      | (simp only [bind_assoc, pure_bind] at e)
      | (rw [bind_ok] at e
         obtain ⟨⟨x1, g1⟩, e1, e⟩ := e
         try dsimp only at e
         try (apply stepWith e1; (focus (with_reducible apply (h.keeps_inFuncNew); done)); intro f0)
         try (apply stepWith e1; (focus (with_reducible apply (h.keeps_ownedNew); done)); intro f1)
         try (apply stepWith e1; (focus (with_reducible apply (ptrVal_of_NewInst); done)); intro f2)
         first
           | (apply stepWith e1; (focus (with_reducible apply (h.keeps_NewInst); done)); clear h; intro h) | (apply stepWith e1; (focus (with_reducible apply (h.keeps_NewStore); done)); clear h; intro h) | (apply stepWith e1; (focus (with_reducible apply (h.keeps_NewTerm); done)); clear h; intro h) | (apply stepWith e1; (focus (with_reducible apply (h.keeps_NewInstAt); done)); clear h; intro h) | (apply stepWith e1; (focus (with_reducible apply (h.keeps_NewStoreAt); done)); clear h; intro h) | (apply stepWith e1; (focus (with_reducible apply (h.keeps_NewTermAt); done)); clear h; intro h) | (apply stepWith e1; (focus (with_reducible apply (h.keeps_NewBlock); done)); clear h; intro h) | (apply stepWith e1; (focus (with_reducible apply (h.keeps_NewBlockIn); done)); clear h; intro h) | (apply stepWith e1; (focus (with_reducible apply (ih1.keeps h); done)); clear h; intro h) | (apply stepWith e1; (focus (with_reducible apply (ihr _ _ _ _ _ _ _ _ h.keeps_ext); done)); clear h; intro h)
           | (cases e1)
           | (refine Keeps.keeps_cutFrom h (b := g1) ?_ ?_ <;>
               first | (intro h2; clear h e1; rename' h2 => h) | (clear e; rename' e1 => e))
           | fail)
      | (split at e <;>
         try (rename_i heq
              try (apply stepWith heq; (focus (with_reducible apply (h.keeps_inFunc); done)); intro i2)
              try (apply stepWith heq; (focus (with_reducible apply (h.keeps_curFunc); done)); intro i3)
              try (first | (apply stepWith heq; (focus (with_reducible apply (h.keeps_NewInst); done)); clear h; intro h) | (apply stepWith heq; (focus (with_reducible apply (h.keeps_NewStore); done)); clear h; intro h) | (apply stepWith heq; (focus (with_reducible apply (h.keeps_NewTerm); done)); clear h; intro h) | (apply stepWith heq; (focus (with_reducible apply (h.keeps_NewInstAt); done)); clear h; intro h) | (apply stepWith heq; (focus (with_reducible apply (h.keeps_NewStoreAt); done)); clear h; intro h) | (apply stepWith heq; (focus (with_reducible apply (h.keeps_NewTermAt); done)); clear h; intro h) | (apply stepWith heq; (focus (with_reducible apply (h.keeps_NewBlock); done)); clear h; intro h) | (apply stepWith heq; (focus (with_reducible apply (h.keeps_NewBlockIn); done)); clear h; intro h) | (apply stepWith heq; (focus (with_reducible apply (ih1.keeps h); done)); clear h; intro h) | (apply stepWith heq; (focus (with_reducible apply (ihr _ _ _ _ _ _ _ _ h.keeps_ext); done)); clear h; intro h) | fail)))
      | (cases e; first | done | exact Keeps.keeps_less (Keeps.keeps_ext h) | fail)
      | (dsimp only at e)
      | fail)

theorem Keeps.keeps_booleanSwitchValues {l : List Expression} (ih : ∀ e ∈ l, ExprKept e) {a g x g' : IRGenerator}
    {B : List Nat} [KExt a g x B] {j : Nat} {condition : Option Value} {currentBlock : Option Nat} [OwnedOpt a currentBlock] {r : Option Value} (h : Keeps a g B)
    (e : booleanSwitchValues l j condition currentBlock x = .ok (r, g')) : Keeps a g' B :=
  booleanSwitchValues_keeps l ih _ _ _ a x g' B r h.keeps_ext e

theorem generateBlockStatement_keeps (l : List Statement) (ih : ∀ e ∈ l, StmtKept e) :
    ∀ (a x g' : IRGenerator) (B : List Nat) (r : Unit), Keeps a x B →
      generateBlockStatement l x = .ok (r, g') → Keeps a g' B := by
  induction l with
  | nil =>
    intro a x g' B r h e
    rw [generateBlockStatement_nil_eq] at e
    cases e
    exact h
  | cons s rest ihl =>
    intro a x g' B r h e
    have ih1 := ih s (List.mem_cons_self _ _)
    have ihr := ihl (fun e he => ih e (List.mem_cons_of_mem _ he))
    rw [generateBlockStatement_cons_eq] at e
    try simp only [IRGenerator.NewAlloca, IRGenerator.NewLoad, IRGenerator.NewBin, IRGenerator.NewICmp, IRGenerator.NewFCmp, IRGenerator.NewGetElementPtr, IRGenerator.funcValue, NewCall_func, IRGenerator.NewCall, IRGenerator.NewZExt, IRGenerator.NewSelect, IRGenerator.NewBr, IRGenerator.NewCondBr, IRGenerator.NewRet, IRGenerator.NewUnreachable, IRGenerator.NewFunc, IRGenerator.NewGlobalDef] at e
    repeat' (first
      | (first | (revert e; with_reducible apply (Keeps.keeps_less ∘ (h.keeps_asResult)); done) | (revert e; with_reducible apply (Keeps.keeps_less ∘ (h.keeps_failWith)); done) | (revert e; with_reducible apply (Keeps.keeps_less ∘ (h.keeps_NewInst)); done) | (revert e; with_reducible apply (Keeps.keeps_less ∘ (h.keeps_NewStore)); done) | (revert e; with_reducible apply (Keeps.keeps_less ∘ (h.keeps_NewTerm)); done) | (revert e; with_reducible apply (Keeps.keeps_less ∘ (h.keeps_NewInstAt)); done) | (revert e; with_reducible apply (Keeps.keeps_less ∘ (h.keeps_NewStoreAt)); done) | (revert e; with_reducible apply (Keeps.keeps_less ∘ (h.keeps_NewTermAt)); done) | (revert e; with_reducible apply (Keeps.keeps_less ∘ (h.keeps_NewBlock)); done) | (revert e; with_reducible apply (Keeps.keeps_less ∘ (h.keeps_NewBlockIn)); done) | (revert e; with_reducible apply (Keeps.keeps_less ∘ (ih1.keeps h)); done) | (revert e; with_reducible apply (Keeps.keeps_less ∘ (ihr _ _ _ _ _ h.keeps_ext)); done) | fail)
      | (apply stepWith e; (focus (with_reducible apply (@ite_ok _ _ _ _ _ _); done)); intro e2
         clear e
         rcases e2 with ⟨hc, e⟩ | ⟨hc, e⟩ <;>
         try (apply stepWith hc; (focus (with_reducible apply (h.keeps_inFuncNot); done)); intro i1))
      | (simp only [bind_assoc, pure_bind] at e)
      | (rw [bind_ok] at e
         obtain ⟨⟨x1, g1⟩, e1, e⟩ := e
         try dsimp only at e
         try (apply stepWith e1; (focus (with_reducible apply (h.keeps_inFuncNew); done)); intro f0)
         try (apply stepWith e1; (focus (with_reducible apply (h.keeps_ownedNew); done)); intro f1)
         try (apply stepWith e1; (focus (with_reducible apply (ptrVal_of_NewInst); done)); intro f2)
         first
           | (apply stepWith e1; (focus (with_reducible apply (h.keeps_NewInst); done)); clear h; intro h) | (apply stepWith e1; (focus (with_reducible apply (h.keeps_NewStore); done)); clear h; intro h) | (apply stepWith e1; (focus (with_reducible apply (h.keeps_NewTerm); done)); clear h; intro h) | (apply stepWith e1; (focus (with_reducible apply (h.keeps_NewInstAt); done)); clear h; intro h) | (apply stepWith e1; (focus (with_reducible apply (h.keeps_NewStoreAt); done)); clear h; intro h) | (apply stepWith e1; (focus (with_reducible apply (h.keeps_NewTermAt); done)); clear h; intro h) | (apply stepWith e1; (focus (with_reducible apply (h.keeps_NewBlock); done)); clear h; intro h) | (apply stepWith e1; (focus (with_reducible apply (h.keeps_NewBlockIn); done)); clear h; intro h) | (apply stepWith e1; (focus (with_reducible apply (ih1.keeps h); done)); clear h; intro h) | (apply stepWith e1; (focus (with_reducible apply (ihr _ _ _ _ _ h.keeps_ext); done)); clear h; intro h)
           | (cases e1)
           | (refine Keeps.keeps_cutFrom h (b := g1) ?_ ?_ <;>
               first | (intro h2; clear h e1; rename' h2 => h) | (clear e; rename' e1 => e))
           | fail)
      | (split at e <;>
         try (rename_i heq
              try (apply stepWith heq; (focus (with_reducible apply (h.keeps_inFunc); done)); intro i2)
              try (apply stepWith heq; (focus (with_reducible apply (h.keeps_curFunc); done)); intro i3)
              try (first | (apply stepWith heq; (focus (with_reducible apply (h.keeps_NewInst); done)); clear h; intro h) | (apply stepWith heq; (focus (with_reducible apply (h.keeps_NewStore); done)); clear h; intro h) | (apply stepWith heq; (focus (with_reducible apply (h.keeps_NewTerm); done)); clear h; intro h) | (apply stepWith heq; (focus (with_reducible apply (h.keeps_NewInstAt); done)); clear h; intro h) | (apply stepWith heq; (focus (with_reducible apply (h.keeps_NewStoreAt); done)); clear h; intro h) | (apply stepWith heq; (focus (with_reducible apply (h.keeps_NewTermAt); done)); clear h; intro h) | (apply stepWith heq; (focus (with_reducible apply (h.keeps_NewBlock); done)); clear h; intro h) | (apply stepWith heq; (focus (with_reducible apply (h.keeps_NewBlockIn); done)); clear h; intro h) | (apply stepWith heq; (focus (with_reducible apply (ih1.keeps h); done)); clear h; intro h) | (apply stepWith heq; (focus (with_reducible apply (ihr _ _ _ _ _ h.keeps_ext); done)); clear h; intro h) | fail)))
      | (cases e; first | done | exact Keeps.keeps_less (Keeps.keeps_ext h) | fail)
      | (dsimp only at e)
      | fail)

theorem Keeps.keeps_generateBlockStatement {l : List Statement} (ih : ∀ e ∈ l, StmtKept e) {a g x g' : IRGenerator}
    {B : List Nat} [KExt a g x B] {r : Unit} (h : Keeps a g B)
    (e : generateBlockStatement l x = .ok (r, g')) : Keeps a g' B :=
  generateBlockStatement_keeps l ih a x g' B r h.keeps_ext e

theorem caseBody_keeps (l : List Statement) (ih : ∀ e ∈ l, StmtKept e) :
    ∀ (a x g' : IRGenerator) (B : List Nat) (r : Unit), Keeps a x B →
      caseBody l x = .ok (r, g') → Keeps a g' B := by
  induction l with
  | nil =>
    intro a x g' B r h e
    rw [caseBody_nil_eq] at e
    cases e
    exact h
  | cons s rest ihl =>
    intro a x g' B r h e
    have ih1 := ih s (List.mem_cons_self _ _)
    have ihr := ihl (fun e he => ih e (List.mem_cons_of_mem _ he))
    rw [caseBody_cons_eq] at e
    try simp only [IRGenerator.NewAlloca, IRGenerator.NewLoad, IRGenerator.NewBin, IRGenerator.NewICmp, IRGenerator.NewFCmp, IRGenerator.NewGetElementPtr, IRGenerator.funcValue, NewCall_func, IRGenerator.NewCall, IRGenerator.NewZExt, IRGenerator.NewSelect, IRGenerator.NewBr, IRGenerator.NewCondBr, IRGenerator.NewRet, IRGenerator.NewUnreachable, IRGenerator.NewFunc, IRGenerator.NewGlobalDef] at e
    repeat' (first
      | (first | (revert e; with_reducible apply (Keeps.keeps_less ∘ (h.keeps_asResult)); done) | (revert e; with_reducible apply (Keeps.keeps_less ∘ (h.keeps_failWith)); done) | (revert e; with_reducible apply (Keeps.keeps_less ∘ (h.keeps_NewInst)); done) | (revert e; with_reducible apply (Keeps.keeps_less ∘ (h.keeps_NewStore)); done) | (revert e; with_reducible apply (Keeps.keeps_less ∘ (h.keeps_NewTerm)); done) | (revert e; with_reducible apply (Keeps.keeps_less ∘ (h.keeps_NewInstAt)); done) | (revert e; with_reducible apply (Keeps.keeps_less ∘ (h.keeps_NewStoreAt)); done) | (revert e; with_reducible apply (Keeps.keeps_less ∘ (h.keeps_NewTermAt)); done) | (revert e; with_reducible apply (Keeps.keeps_less ∘ (h.keeps_NewBlock)); done) | (revert e; with_reducible apply (Keeps.keeps_less ∘ (h.keeps_NewBlockIn)); done) | (revert e; with_reducible apply (Keeps.keeps_less ∘ (ih1.keeps h)); done) | (revert e; with_reducible apply (Keeps.keeps_less ∘ (ihr _ _ _ _ _ h.keeps_ext)); done) | fail)
      | (apply stepWith e; (focus (with_reducible apply (@ite_ok _ _ _ _ _ _); done)); intro e2
         clear e
         rcases e2 with ⟨hc, e⟩ | ⟨hc, e⟩ <;>
         try (apply stepWith hc; (focus (with_reducible apply (h.keeps_inFuncNot); done)); intro i1))
      | (simp only [bind_assoc, pure_bind] at e)
      | (rw [bind_ok] at e
         obtain ⟨⟨x1, g1⟩, e1, e⟩ := e
         try dsimp only at e
         try (apply stepWith e1; (focus (with_reducible apply (h.keeps_inFuncNew); done)); intro f0)
         try (apply stepWith e1; (focus (with_reducible apply (h.keeps_ownedNew); done)); intro f1)
         try (apply stepWith e1; (focus (with_reducible apply (ptrVal_of_NewInst); done)); intro f2)
         first
           | (apply stepWith e1; (focus (with_reducible apply (h.keeps_NewInst); done)); clear h; intro h) | (apply stepWith e1; (focus (with_reducible apply (h.keeps_NewStore); done)); clear h; intro h) | (apply stepWith e1; (focus (with_reducible apply (h.keeps_NewTerm); done)); clear h; intro h) | (apply stepWith e1; (focus (with_reducible apply (h.keeps_NewInstAt); done)); clear h; intro h) | (apply stepWith e1; (focus (with_reducible apply (h.keeps_NewStoreAt); done)); clear h; intro h) | (apply stepWith e1; (focus (with_reducible apply (h.keeps_NewTermAt); done)); clear h; intro h) | (apply stepWith e1; (focus (with_reducible apply (h.keeps_NewBlock); done)); clear h; intro h) | (apply stepWith e1; (focus (with_reducible apply (h.keeps_NewBlockIn); done)); clear h; intro h) | (apply stepWith e1; (focus (with_reducible apply (ih1.keeps h); done)); clear h; intro h) | (apply stepWith e1; (focus (with_reducible apply (ihr _ _ _ _ _ h.keeps_ext); done)); clear h; intro h)
           | (cases e1)
           | (refine Keeps.keeps_cutFrom h (b := g1) ?_ ?_ <;>
               first | (intro h2; clear h e1; rename' h2 => h) | (clear e; rename' e1 => e))
           | fail)
      | (split at e <;>
         try (rename_i heq
              try (apply stepWith heq; (focus (with_reducible apply (h.keeps_inFunc); done)); intro i2)
              try (apply stepWith heq; (focus (with_reducible apply (h.keeps_curFunc); done)); intro i3)
              try (first | (apply stepWith heq; (focus (with_reducible apply (h.keeps_NewInst); done)); clear h; intro h) | (apply stepWith heq; (focus (with_reducible apply (h.keeps_NewStore); done)); clear h; intro h) | (apply stepWith heq; (focus (with_reducible apply (h.keeps_NewTerm); done)); clear h; intro h) | (apply stepWith heq; (focus (with_reducible apply (h.keeps_NewInstAt); done)); clear h; intro h) | (apply stepWith heq; (focus (with_reducible apply (h.keeps_NewStoreAt); done)); clear h; intro h) | (apply stepWith heq; (focus (with_reducible apply (h.keeps_NewTermAt); done)); clear h; intro h) | (apply stepWith heq; (focus (with_reducible apply (h.keeps_NewBlock); done)); clear h; intro h) | (apply stepWith heq; (focus (with_reducible apply (h.keeps_NewBlockIn); done)); clear h; intro h) | (apply stepWith heq; (focus (with_reducible apply (ih1.keeps h); done)); clear h; intro h) | (apply stepWith heq; (focus (with_reducible apply (ihr _ _ _ _ _ h.keeps_ext); done)); clear h; intro h) | fail)))
      | (cases e; first | done | exact Keeps.keeps_less (Keeps.keeps_ext h) | fail)
      | (dsimp only at e)
      | fail)

theorem Keeps.keeps_caseBody {l : List Statement} (ih : ∀ e ∈ l, StmtKept e) {a g x g' : IRGenerator}
    {B : List Nat} [KExt a g x B] {r : Unit} (h : Keeps a g B)
    (e : caseBody l x = .ok (r, g')) : Keeps a g' B :=
  caseBody_keeps l ih a x g' B r h.keeps_ext e

theorem Keeps.keeps_generateLenCall {l : List Expression} (ih : ∀ e ∈ l, ExprKept e)
    {a g x g' : IRGenerator} {B : List Nat} [KExt a g x B] {r : Option Value} (h : Keeps a g B)
    (e : generateLenCall l x = .ok (r, g')) : Keeps a g' B := by
  replace h : Keeps a x B := h.keeps_ext
  rcases l with _ | ⟨a0, _ | ⟨b, rest⟩⟩
  · rw [generateLenCall_nil_eq] at e
    try simp only [IRGenerator.NewAlloca, IRGenerator.NewLoad, IRGenerator.NewBin, IRGenerator.NewICmp, IRGenerator.NewFCmp, IRGenerator.NewGetElementPtr, IRGenerator.funcValue, NewCall_func, IRGenerator.NewCall, IRGenerator.NewZExt, IRGenerator.NewSelect, IRGenerator.NewBr, IRGenerator.NewCondBr, IRGenerator.NewRet, IRGenerator.NewUnreachable, IRGenerator.NewFunc, IRGenerator.NewGlobalDef] at e
    repeat' (first
      | (first | (revert e; with_reducible apply (Keeps.keeps_less ∘ (h.keeps_asResult)); done) | (revert e; with_reducible apply (Keeps.keeps_less ∘ (h.keeps_failWith)); done) | (revert e; with_reducible apply (Keeps.keeps_less ∘ (h.keeps_NewInst)); done) | (revert e; with_reducible apply (Keeps.keeps_less ∘ (h.keeps_NewStore)); done) | (revert e; with_reducible apply (Keeps.keeps_less ∘ (h.keeps_NewTerm)); done) | (revert e; with_reducible apply (Keeps.keeps_less ∘ (h.keeps_NewInstAt)); done) | (revert e; with_reducible apply (Keeps.keeps_less ∘ (h.keeps_NewStoreAt)); done) | (revert e; with_reducible apply (Keeps.keeps_less ∘ (h.keeps_NewTermAt)); done) | (revert e; with_reducible apply (Keeps.keeps_less ∘ (h.keeps_NewBlock)); done) | (revert e; with_reducible apply (Keeps.keeps_less ∘ (h.keeps_NewBlockIn)); done) | fail)
      | (apply stepWith e; (focus (with_reducible apply (@ite_ok _ _ _ _ _ _); done)); intro e2
         clear e
         rcases e2 with ⟨hc, e⟩ | ⟨hc, e⟩ <;>
         try (apply stepWith hc; (focus (with_reducible apply (h.keeps_inFuncNot); done)); intro i1))
      | (simp only [bind_assoc, pure_bind] at e)
      | (rw [bind_ok] at e
         obtain ⟨⟨x1, g1⟩, e1, e⟩ := e
         try dsimp only at e
         try (apply stepWith e1; (focus (with_reducible apply (h.keeps_inFuncNew); done)); intro f0)
         try (apply stepWith e1; (focus (with_reducible apply (h.keeps_ownedNew); done)); intro f1)
         try (apply stepWith e1; (focus (with_reducible apply (ptrVal_of_NewInst); done)); intro f2)
         first
           | (apply stepWith e1; (focus (with_reducible apply (h.keeps_NewInst); done)); clear h; intro h) | (apply stepWith e1; (focus (with_reducible apply (h.keeps_NewStore); done)); clear h; intro h) | (apply stepWith e1; (focus (with_reducible apply (h.keeps_NewTerm); done)); clear h; intro h) | (apply stepWith e1; (focus (with_reducible apply (h.keeps_NewInstAt); done)); clear h; intro h) | (apply stepWith e1; (focus (with_reducible apply (h.keeps_NewStoreAt); done)); clear h; intro h) | (apply stepWith e1; (focus (with_reducible apply (h.keeps_NewTermAt); done)); clear h; intro h) | (apply stepWith e1; (focus (with_reducible apply (h.keeps_NewBlock); done)); clear h; intro h) | (apply stepWith e1; (focus (with_reducible apply (h.keeps_NewBlockIn); done)); clear h; intro h)
           | (cases e1)
           | (refine Keeps.keeps_cutFrom h (b := g1) ?_ ?_ <;>
               first | (intro h2; clear h e1; rename' h2 => h) | (clear e; rename' e1 => e))
           | fail)
      | (split at e <;>
         try (rename_i heq
              try (apply stepWith heq; (focus (with_reducible apply (h.keeps_inFunc); done)); intro i2)
              try (apply stepWith heq; (focus (with_reducible apply (h.keeps_curFunc); done)); intro i3)
              try (first | (apply stepWith heq; (focus (with_reducible apply (h.keeps_NewInst); done)); clear h; intro h) | (apply stepWith heq; (focus (with_reducible apply (h.keeps_NewStore); done)); clear h; intro h) | (apply stepWith heq; (focus (with_reducible apply (h.keeps_NewTerm); done)); clear h; intro h) | (apply stepWith heq; (focus (with_reducible apply (h.keeps_NewInstAt); done)); clear h; intro h) | (apply stepWith heq; (focus (with_reducible apply (h.keeps_NewStoreAt); done)); clear h; intro h) | (apply stepWith heq; (focus (with_reducible apply (h.keeps_NewTermAt); done)); clear h; intro h) | (apply stepWith heq; (focus (with_reducible apply (h.keeps_NewBlock); done)); clear h; intro h) | (apply stepWith heq; (focus (with_reducible apply (h.keeps_NewBlockIn); done)); clear h; intro h) | fail)))
      | (cases e; first | done | exact Keeps.keeps_less (Keeps.keeps_ext h) | fail)
      | (dsimp only at e)
      | fail)
  · rw [generateLenCall_one_eq] at e
    have ih0 := ih _ (List.mem_cons_self _ _)
    try simp only [IRGenerator.NewAlloca, IRGenerator.NewLoad, IRGenerator.NewBin, IRGenerator.NewICmp, IRGenerator.NewFCmp, IRGenerator.NewGetElementPtr, IRGenerator.funcValue, NewCall_func, IRGenerator.NewCall, IRGenerator.NewZExt, IRGenerator.NewSelect, IRGenerator.NewBr, IRGenerator.NewCondBr, IRGenerator.NewRet, IRGenerator.NewUnreachable, IRGenerator.NewFunc, IRGenerator.NewGlobalDef] at e
    repeat' (first
      | (first | (revert e; with_reducible apply (Keeps.keeps_less ∘ (h.keeps_asResult)); done) | (revert e; with_reducible apply (Keeps.keeps_less ∘ (h.keeps_failWith)); done) | (revert e; with_reducible apply (Keeps.keeps_less ∘ (h.keeps_NewInst)); done) | (revert e; with_reducible apply (Keeps.keeps_less ∘ (h.keeps_NewStore)); done) | (revert e; with_reducible apply (Keeps.keeps_less ∘ (h.keeps_NewTerm)); done) | (revert e; with_reducible apply (Keeps.keeps_less ∘ (h.keeps_NewInstAt)); done) | (revert e; with_reducible apply (Keeps.keeps_less ∘ (h.keeps_NewStoreAt)); done) | (revert e; with_reducible apply (Keeps.keeps_less ∘ (h.keeps_NewTermAt)); done) | (revert e; with_reducible apply (Keeps.keeps_less ∘ (h.keeps_NewBlock)); done) | (revert e; with_reducible apply (Keeps.keeps_less ∘ (h.keeps_NewBlockIn)); done) | (revert e; with_reducible apply (Keeps.keeps_less ∘ (ih0.keeps h)); done) | (revert e; with_reducible apply (Keeps.keeps_less ∘ (h.keeps_lenOrCap)); done) | fail)
      | (apply stepWith e; (focus (with_reducible apply (@ite_ok _ _ _ _ _ _); done)); intro e2
         clear e
         rcases e2 with ⟨hc, e⟩ | ⟨hc, e⟩ <;>
         try (apply stepWith hc; (focus (with_reducible apply (h.keeps_inFuncNot); done)); intro i1))
      | (simp only [bind_assoc, pure_bind] at e)
      | (rw [bind_ok] at e
         obtain ⟨⟨x1, g1⟩, e1, e⟩ := e
         try dsimp only at e
         try (apply stepWith e1; (focus (with_reducible apply (h.keeps_inFuncNew); done)); intro f0)
         try (apply stepWith e1; (focus (with_reducible apply (h.keeps_ownedNew); done)); intro f1)
         try (apply stepWith e1; (focus (with_reducible apply (ptrVal_of_NewInst); done)); intro f2)
         first
           | (apply stepWith e1; (focus (with_reducible apply (h.keeps_NewInst); done)); clear h; intro h) | (apply stepWith e1; (focus (with_reducible apply (h.keeps_NewStore); done)); clear h; intro h) | (apply stepWith e1; (focus (with_reducible apply (h.keeps_NewTerm); done)); clear h; intro h) | (apply stepWith e1; (focus (with_reducible apply (h.keeps_NewInstAt); done)); clear h; intro h) | (apply stepWith e1; (focus (with_reducible apply (h.keeps_NewStoreAt); done)); clear h; intro h) | (apply stepWith e1; (focus (with_reducible apply (h.keeps_NewTermAt); done)); clear h; intro h) | (apply stepWith e1; (focus (with_reducible apply (h.keeps_NewBlock); done)); clear h; intro h) | (apply stepWith e1; (focus (with_reducible apply (h.keeps_NewBlockIn); done)); clear h; intro h) | (apply stepWith e1; (focus (with_reducible apply (ih0.keeps h); done)); clear h; intro h) | (apply stepWith e1; (focus (with_reducible apply (h.keeps_lenOrCap); done)); clear h; intro h)
           | (cases e1)
           | (refine Keeps.keeps_cutFrom h (b := g1) ?_ ?_ <;>
               first | (intro h2; clear h e1; rename' h2 => h) | (clear e; rename' e1 => e))
           | fail)
      | (split at e <;>
         try (rename_i heq
              try (apply stepWith heq; (focus (with_reducible apply (h.keeps_inFunc); done)); intro i2)
              try (apply stepWith heq; (focus (with_reducible apply (h.keeps_curFunc); done)); intro i3)
              try (first | (apply stepWith heq; (focus (with_reducible apply (h.keeps_NewInst); done)); clear h; intro h) | (apply stepWith heq; (focus (with_reducible apply (h.keeps_NewStore); done)); clear h; intro h) | (apply stepWith heq; (focus (with_reducible apply (h.keeps_NewTerm); done)); clear h; intro h) | (apply stepWith heq; (focus (with_reducible apply (h.keeps_NewInstAt); done)); clear h; intro h) | (apply stepWith heq; (focus (with_reducible apply (h.keeps_NewStoreAt); done)); clear h; intro h) | (apply stepWith heq; (focus (with_reducible apply (h.keeps_NewTermAt); done)); clear h; intro h) | (apply stepWith heq; (focus (with_reducible apply (h.keeps_NewBlock); done)); clear h; intro h) | (apply stepWith heq; (focus (with_reducible apply (h.keeps_NewBlockIn); done)); clear h; intro h) | (apply stepWith heq; (focus (with_reducible apply (ih0.keeps h); done)); clear h; intro h) | (apply stepWith heq; (focus (with_reducible apply (h.keeps_lenOrCap); done)); clear h; intro h) | fail)))
      | (cases e; first | done | exact Keeps.keeps_less (Keeps.keeps_ext h) | fail)
      | (dsimp only at e)
      | fail)
  · rw [generateLenCall_more_eq] at e
    try simp only [IRGenerator.NewAlloca, IRGenerator.NewLoad, IRGenerator.NewBin, IRGenerator.NewICmp, IRGenerator.NewFCmp, IRGenerator.NewGetElementPtr, IRGenerator.funcValue, NewCall_func, IRGenerator.NewCall, IRGenerator.NewZExt, IRGenerator.NewSelect, IRGenerator.NewBr, IRGenerator.NewCondBr, IRGenerator.NewRet, IRGenerator.NewUnreachable, IRGenerator.NewFunc, IRGenerator.NewGlobalDef] at e
    repeat' (first
      | (first | (revert e; with_reducible apply (Keeps.keeps_less ∘ (h.keeps_asResult)); done) | (revert e; with_reducible apply (Keeps.keeps_less ∘ (h.keeps_failWith)); done) | (revert e; with_reducible apply (Keeps.keeps_less ∘ (h.keeps_NewInst)); done) | (revert e; with_reducible apply (Keeps.keeps_less ∘ (h.keeps_NewStore)); done) | (revert e; with_reducible apply (Keeps.keeps_less ∘ (h.keeps_NewTerm)); done) | (revert e; with_reducible apply (Keeps.keeps_less ∘ (h.keeps_NewInstAt)); done) | (revert e; with_reducible apply (Keeps.keeps_less ∘ (h.keeps_NewStoreAt)); done) | (revert e; with_reducible apply (Keeps.keeps_less ∘ (h.keeps_NewTermAt)); done) | (revert e; with_reducible apply (Keeps.keeps_less ∘ (h.keeps_NewBlock)); done) | (revert e; with_reducible apply (Keeps.keeps_less ∘ (h.keeps_NewBlockIn)); done) | fail)
      | (apply stepWith e; (focus (with_reducible apply (@ite_ok _ _ _ _ _ _); done)); intro e2
         clear e
         rcases e2 with ⟨hc, e⟩ | ⟨hc, e⟩ <;>
         try (apply stepWith hc; (focus (with_reducible apply (h.keeps_inFuncNot); done)); intro i1))
      | (simp only [bind_assoc, pure_bind] at e)
      | (rw [bind_ok] at e
         obtain ⟨⟨x1, g1⟩, e1, e⟩ := e
         try dsimp only at e
         try (apply stepWith e1; (focus (with_reducible apply (h.keeps_inFuncNew); done)); intro f0)
         try (apply stepWith e1; (focus (with_reducible apply (h.keeps_ownedNew); done)); intro f1)
         try (apply stepWith e1; (focus (with_reducible apply (ptrVal_of_NewInst); done)); intro f2)
         first
           | (apply stepWith e1; (focus (with_reducible apply (h.keeps_NewInst); done)); clear h; intro h) | (apply stepWith e1; (focus (with_reducible apply (h.keeps_NewStore); done)); clear h; intro h) | (apply stepWith e1; (focus (with_reducible apply (h.keeps_NewTerm); done)); clear h; intro h) | (apply stepWith e1; (focus (with_reducible apply (h.keeps_NewInstAt); done)); clear h; intro h) | (apply stepWith e1; (focus (with_reducible apply (h.keeps_NewStoreAt); done)); clear h; intro h) | (apply stepWith e1; (focus (with_reducible apply (h.keeps_NewTermAt); done)); clear h; intro h) | (apply stepWith e1; (focus (with_reducible apply (h.keeps_NewBlock); done)); clear h; intro h) | (apply stepWith e1; (focus (with_reducible apply (h.keeps_NewBlockIn); done)); clear h; intro h)
           | (cases e1)
           | (refine Keeps.keeps_cutFrom h (b := g1) ?_ ?_ <;>
               first | (intro h2; clear h e1; rename' h2 => h) | (clear e; rename' e1 => e))
           | fail)
      | (split at e <;>
         try (rename_i heq
              try (apply stepWith heq; (focus (with_reducible apply (h.keeps_inFunc); done)); intro i2)
              try (apply stepWith heq; (focus (with_reducible apply (h.keeps_curFunc); done)); intro i3)
              try (first | (apply stepWith heq; (focus (with_reducible apply (h.keeps_NewInst); done)); clear h; intro h) | (apply stepWith heq; (focus (with_reducible apply (h.keeps_NewStore); done)); clear h; intro h) | (apply stepWith heq; (focus (with_reducible apply (h.keeps_NewTerm); done)); clear h; intro h) | (apply stepWith heq; (focus (with_reducible apply (h.keeps_NewInstAt); done)); clear h; intro h) | (apply stepWith heq; (focus (with_reducible apply (h.keeps_NewStoreAt); done)); clear h; intro h) | (apply stepWith heq; (focus (with_reducible apply (h.keeps_NewTermAt); done)); clear h; intro h) | (apply stepWith heq; (focus (with_reducible apply (h.keeps_NewBlock); done)); clear h; intro h) | (apply stepWith heq; (focus (with_reducible apply (h.keeps_NewBlockIn); done)); clear h; intro h) | fail)))
      | (cases e; first | done | exact Keeps.keeps_less (Keeps.keeps_ext h) | fail)
      | (dsimp only at e)
      | fail)

theorem Keeps.keeps_generateCapCall {l : List Expression} (ih : ∀ e ∈ l, ExprKept e)
    {a g x g' : IRGenerator} {B : List Nat} [KExt a g x B] {r : Option Value} (h : Keeps a g B)
    (e : generateCapCall l x = .ok (r, g')) : Keeps a g' B := by
  replace h : Keeps a x B := h.keeps_ext
  rcases l with _ | ⟨a0, _ | ⟨b, rest⟩⟩
  · rw [generateCapCall_nil_eq] at e
    try simp only [IRGenerator.NewAlloca, IRGenerator.NewLoad, IRGenerator.NewBin, IRGenerator.NewICmp, IRGenerator.NewFCmp, IRGenerator.NewGetElementPtr, IRGenerator.funcValue, NewCall_func, IRGenerator.NewCall, IRGenerator.NewZExt, IRGenerator.NewSelect, IRGenerator.NewBr, IRGenerator.NewCondBr, IRGenerator.NewRet, IRGenerator.NewUnreachable, IRGenerator.NewFunc, IRGenerator.NewGlobalDef] at e
    repeat' (first
      | (first | (revert e; with_reducible apply (Keeps.keeps_less ∘ (h.keeps_asResult)); done) | (revert e; with_reducible apply (Keeps.keeps_less ∘ (h.keeps_failWith)); done) | (revert e; with_reducible apply (Keeps.keeps_less ∘ (h.keeps_NewInst)); done) | (revert e; with_reducible apply (Keeps.keeps_less ∘ (h.keeps_NewStore)); done) | (revert e; with_reducible apply (Keeps.keeps_less ∘ (h.keeps_NewTerm)); done) | (revert e; with_reducible apply (Keeps.keeps_less ∘ (h.keeps_NewInstAt)); done) | (revert e; with_reducible apply (Keeps.keeps_less ∘ (h.keeps_NewStoreAt)); done) | (revert e; with_reducible apply (Keeps.keeps_less ∘ (h.keeps_NewTermAt)); done) | (revert e; with_reducible apply (Keeps.keeps_less ∘ (h.keeps_NewBlock)); done) | (revert e; with_reducible apply (Keeps.keeps_less ∘ (h.keeps_NewBlockIn)); done) | fail)
      | (apply stepWith e; (focus (with_reducible apply (@ite_ok _ _ _ _ _ _); done)); intro e2
         clear e
         rcases e2 with ⟨hc, e⟩ | ⟨hc, e⟩ <;>
         try (apply stepWith hc; (focus (with_reducible apply (h.keeps_inFuncNot); done)); intro i1))
      | (simp only [bind_assoc, pure_bind] at e)
      | (rw [bind_ok] at e
         obtain ⟨⟨x1, g1⟩, e1, e⟩ := e
         try dsimp only at e
         try (apply stepWith e1; (focus (with_reducible apply (h.keeps_inFuncNew); done)); intro f0)
         try (apply stepWith e1; (focus (with_reducible apply (h.keeps_ownedNew); done)); intro f1)
         try (apply stepWith e1; (focus (with_reducible apply (ptrVal_of_NewInst); done)); intro f2)
         first
           | (apply stepWith e1; (focus (with_reducible apply (h.keeps_NewInst); done)); clear h; intro h) | (apply stepWith e1; (focus (with_reducible apply (h.keeps_NewStore); done)); clear h; intro h) | (apply stepWith e1; (focus (with_reducible apply (h.keeps_NewTerm); done)); clear h; intro h) | (apply stepWith e1; (focus (with_reducible apply (h.keeps_NewInstAt); done)); clear h; intro h) | (apply stepWith e1; (focus (with_reducible apply (h.keeps_NewStoreAt); done)); clear h; intro h) | (apply stepWith e1; (focus (with_reducible apply (h.keeps_NewTermAt); done)); clear h; intro h) | (apply stepWith e1; (focus (with_reducible apply (h.keeps_NewBlock); done)); clear h; intro h) | (apply stepWith e1; (focus (with_reducible apply (h.keeps_NewBlockIn); done)); clear h; intro h)
           | (cases e1)
           | (refine Keeps.keeps_cutFrom h (b := g1) ?_ ?_ <;>
               first | (intro h2; clear h e1; rename' h2 => h) | (clear e; rename' e1 => e))
           | fail)
      | (split at e <;>
         try (rename_i heq
              try (apply stepWith heq; (focus (with_reducible apply (h.keeps_inFunc); done)); intro i2)
              try (apply stepWith heq; (focus (with_reducible apply (h.keeps_curFunc); done)); intro i3)
              try (first | (apply stepWith heq; (focus (with_reducible apply (h.keeps_NewInst); done)); clear h; intro h) | (apply stepWith heq; (focus (with_reducible apply (h.keeps_NewStore); done)); clear h; intro h) | (apply stepWith heq; (focus (with_reducible apply (h.keeps_NewTerm); done)); clear h; intro h) | (apply stepWith heq; (focus (with_reducible apply (h.keeps_NewInstAt); done)); clear h; intro h) | (apply stepWith heq; (focus (with_reducible apply (h.keeps_NewStoreAt); done)); clear h; intro h) | (apply stepWith heq; (focus (with_reducible apply (h.keeps_NewTermAt); done)); clear h; intro h) | (apply stepWith heq; (focus (with_reducible apply (h.keeps_NewBlock); done)); clear h; intro h) | (apply stepWith heq; (focus (with_reducible apply (h.keeps_NewBlockIn); done)); clear h; intro h) | fail)))
      | (cases e; first | done | exact Keeps.keeps_less (Keeps.keeps_ext h) | fail)
      | (dsimp only at e)
      | fail)
  · rw [generateCapCall_one_eq] at e
    have ih0 := ih _ (List.mem_cons_self _ _)
    try simp only [IRGenerator.NewAlloca, IRGenerator.NewLoad, IRGenerator.NewBin, IRGenerator.NewICmp, IRGenerator.NewFCmp, IRGenerator.NewGetElementPtr, IRGenerator.funcValue, NewCall_func, IRGenerator.NewCall, IRGenerator.NewZExt, IRGenerator.NewSelect, IRGenerator.NewBr, IRGenerator.NewCondBr, IRGenerator.NewRet, IRGenerator.NewUnreachable, IRGenerator.NewFunc, IRGenerator.NewGlobalDef] at e
    repeat' (first
      | (first | (revert e; with_reducible apply (Keeps.keeps_less ∘ (h.keeps_asResult)); done) | (revert e; with_reducible apply (Keeps.keeps_less ∘ (h.keeps_failWith)); done) | (revert e; with_reducible apply (Keeps.keeps_less ∘ (h.keeps_NewInst)); done) | (revert e; with_reducible apply (Keeps.keeps_less ∘ (h.keeps_NewStore)); done) | (revert e; with_reducible apply (Keeps.keeps_less ∘ (h.keeps_NewTerm)); done) | (revert e; with_reducible apply (Keeps.keeps_less ∘ (h.keeps_NewInstAt)); done) | (revert e; with_reducible apply (Keeps.keeps_less ∘ (h.keeps_NewStoreAt)); done) | (revert e; with_reducible apply (Keeps.keeps_less ∘ (h.keeps_NewTermAt)); done) | (revert e; with_reducible apply (Keeps.keeps_less ∘ (h.keeps_NewBlock)); done) | (revert e; with_reducible apply (Keeps.keeps_less ∘ (h.keeps_NewBlockIn)); done) | (revert e; with_reducible apply (Keeps.keeps_less ∘ (ih0.keeps h)); done) | (revert e; with_reducible apply (Keeps.keeps_less ∘ (h.keeps_lenOrCap)); done) | fail)
      | (apply stepWith e; (focus (with_reducible apply (@ite_ok _ _ _ _ _ _); done)); intro e2
         clear e
         rcases e2 with ⟨hc, e⟩ | ⟨hc, e⟩ <;>
         try (apply stepWith hc; (focus (with_reducible apply (h.keeps_inFuncNot); done)); intro i1))
      | (simp only [bind_assoc, pure_bind] at e)
      | (rw [bind_ok] at e
         obtain ⟨⟨x1, g1⟩, e1, e⟩ := e
         try dsimp only at e
         try (apply stepWith e1; (focus (with_reducible apply (h.keeps_inFuncNew); done)); intro f0)
         try (apply stepWith e1; (focus (with_reducible apply (h.keeps_ownedNew); done)); intro f1)
         try (apply stepWith e1; (focus (with_reducible apply (ptrVal_of_NewInst); done)); intro f2)
         first
           | (apply stepWith e1; (focus (with_reducible apply (h.keeps_NewInst); done)); clear h; intro h) | (apply stepWith e1; (focus (with_reducible apply (h.keeps_NewStore); done)); clear h; intro h) | (apply stepWith e1; (focus (with_reducible apply (h.keeps_NewTerm); done)); clear h; intro h) | (apply stepWith e1; (focus (with_reducible apply (h.keeps_NewInstAt); done)); clear h; intro h) | (apply stepWith e1; (focus (with_reducible apply (h.keeps_NewStoreAt); done)); clear h; intro h) | (apply stepWith e1; (focus (with_reducible apply (h.keeps_NewTermAt); done)); clear h; intro h) | (apply stepWith e1; (focus (with_reducible apply (h.keeps_NewBlock); done)); clear h; intro h) | (apply stepWith e1; (focus (with_reducible apply (h.keeps_NewBlockIn); done)); clear h; intro h) | (apply stepWith e1; (focus (with_reducible apply (ih0.keeps h); done)); clear h; intro h) | (apply stepWith e1; (focus (with_reducible apply (h.keeps_lenOrCap); done)); clear h; intro h)
           | (cases e1)
           | (refine Keeps.keeps_cutFrom h (b := g1) ?_ ?_ <;>
               first | (intro h2; clear h e1; rename' h2 => h) | (clear e; rename' e1 => e))
           | fail)
      | (split at e <;>
         try (rename_i heq
              try (apply stepWith heq; (focus (with_reducible apply (h.keeps_inFunc); done)); intro i2)
              try (apply stepWith heq; (focus (with_reducible apply (h.keeps_curFunc); done)); intro i3)
              try (first | (apply stepWith heq; (focus (with_reducible apply (h.keeps_NewInst); done)); clear h; intro h) | (apply stepWith heq; (focus (with_reducible apply (h.keeps_NewStore); done)); clear h; intro h) | (apply stepWith heq; (focus (with_reducible apply (h.keeps_NewTerm); done)); clear h; intro h) | (apply stepWith heq; (focus (with_reducible apply (h.keeps_NewInstAt); done)); clear h; intro h) | (apply stepWith heq; (focus (with_reducible apply (h.keeps_NewStoreAt); done)); clear h; intro h) | (apply stepWith heq; (focus (with_reducible apply (h.keeps_NewTermAt); done)); clear h; intro h) | (apply stepWith heq; (focus (with_reducible apply (h.keeps_NewBlock); done)); clear h; intro h) | (apply stepWith heq; (focus (with_reducible apply (h.keeps_NewBlockIn); done)); clear h; intro h) | (apply stepWith heq; (focus (with_reducible apply (ih0.keeps h); done)); clear h; intro h) | (apply stepWith heq; (focus (with_reducible apply (h.keeps_lenOrCap); done)); clear h; intro h) | fail)))
      | (cases e; first | done | exact Keeps.keeps_less (Keeps.keeps_ext h) | fail)
      | (dsimp only at e)
      | fail)
  · rw [generateCapCall_more_eq] at e
    try simp only [IRGenerator.NewAlloca, IRGenerator.NewLoad, IRGenerator.NewBin, IRGenerator.NewICmp, IRGenerator.NewFCmp, IRGenerator.NewGetElementPtr, IRGenerator.funcValue, NewCall_func, IRGenerator.NewCall, IRGenerator.NewZExt, IRGenerator.NewSelect, IRGenerator.NewBr, IRGenerator.NewCondBr, IRGenerator.NewRet, IRGenerator.NewUnreachable, IRGenerator.NewFunc, IRGenerator.NewGlobalDef] at e
    repeat' (first
      | (first | (revert e; with_reducible apply (Keeps.keeps_less ∘ (h.keeps_asResult)); done) | (revert e; with_reducible apply (Keeps.keeps_less ∘ (h.keeps_failWith)); done) | (revert e; with_reducible apply (Keeps.keeps_less ∘ (h.keeps_NewInst)); done) | (revert e; with_reducible apply (Keeps.keeps_less ∘ (h.keeps_NewStore)); done) | (revert e; with_reducible apply (Keeps.keeps_less ∘ (h.keeps_NewTerm)); done) | (revert e; with_reducible apply (Keeps.keeps_less ∘ (h.keeps_NewInstAt)); done) | (revert e; with_reducible apply (Keeps.keeps_less ∘ (h.keeps_NewStoreAt)); done) | (revert e; with_reducible apply (Keeps.keeps_less ∘ (h.keeps_NewTermAt)); done) | (revert e; with_reducible apply (Keeps.keeps_less ∘ (h.keeps_NewBlock)); done) | (revert e; with_reducible apply (Keeps.keeps_less ∘ (h.keeps_NewBlockIn)); done) | fail)
      | (apply stepWith e; (focus (with_reducible apply (@ite_ok _ _ _ _ _ _); done)); intro e2
         clear e
         rcases e2 with ⟨hc, e⟩ | ⟨hc, e⟩ <;>
         try (apply stepWith hc; (focus (with_reducible apply (h.keeps_inFuncNot); done)); intro i1))
      | (simp only [bind_assoc, pure_bind] at e)
      | (rw [bind_ok] at e
         obtain ⟨⟨x1, g1⟩, e1, e⟩ := e
         try dsimp only at e
         try (apply stepWith e1; (focus (with_reducible apply (h.keeps_inFuncNew); done)); intro f0)
         try (apply stepWith e1; (focus (with_reducible apply (h.keeps_ownedNew); done)); intro f1)
         try (apply stepWith e1; (focus (with_reducible apply (ptrVal_of_NewInst); done)); intro f2)
         first
           | (apply stepWith e1; (focus (with_reducible apply (h.keeps_NewInst); done)); clear h; intro h) | (apply stepWith e1; (focus (with_reducible apply (h.keeps_NewStore); done)); clear h; intro h) | (apply stepWith e1; (focus (with_reducible apply (h.keeps_NewTerm); done)); clear h; intro h) | (apply stepWith e1; (focus (with_reducible apply (h.keeps_NewInstAt); done)); clear h; intro h) | (apply stepWith e1; (focus (with_reducible apply (h.keeps_NewStoreAt); done)); clear h; intro h) | (apply stepWith e1; (focus (with_reducible apply (h.keeps_NewTermAt); done)); clear h; intro h) | (apply stepWith e1; (focus (with_reducible apply (h.keeps_NewBlock); done)); clear h; intro h) | (apply stepWith e1; (focus (with_reducible apply (h.keeps_NewBlockIn); done)); clear h; intro h)
           | (cases e1)
           | (refine Keeps.keeps_cutFrom h (b := g1) ?_ ?_ <;>
               first | (intro h2; clear h e1; rename' h2 => h) | (clear e; rename' e1 => e))
           | fail)
      | (split at e <;>
         try (rename_i heq
              try (apply stepWith heq; (focus (with_reducible apply (h.keeps_inFunc); done)); intro i2)
              try (apply stepWith heq; (focus (with_reducible apply (h.keeps_curFunc); done)); intro i3)
              try (first | (apply stepWith heq; (focus (with_reducible apply (h.keeps_NewInst); done)); clear h; intro h) | (apply stepWith heq; (focus (with_reducible apply (h.keeps_NewStore); done)); clear h; intro h) | (apply stepWith heq; (focus (with_reducible apply (h.keeps_NewTerm); done)); clear h; intro h) | (apply stepWith heq; (focus (with_reducible apply (h.keeps_NewInstAt); done)); clear h; intro h) | (apply stepWith heq; (focus (with_reducible apply (h.keeps_NewStoreAt); done)); clear h; intro h) | (apply stepWith heq; (focus (with_reducible apply (h.keeps_NewTermAt); done)); clear h; intro h) | (apply stepWith heq; (focus (with_reducible apply (h.keeps_NewBlock); done)); clear h; intro h) | (apply stepWith heq; (focus (with_reducible apply (h.keeps_NewBlockIn); done)); clear h; intro h) | fail)))
      | (cases e; first | done | exact Keeps.keeps_less (Keeps.keeps_ext h) | fail)
      | (dsimp only at e)
      | fail)

theorem Keeps.keeps_generateAppendCall {l : List Expression} (ih : ∀ e ∈ l, ExprKept e)
    {a g x g' : IRGenerator} {B : List Nat} [KExt a g x B] {r : Option Value} (h : Keeps a g B)
    (e : generateAppendCall l x = .ok (r, g')) : Keeps a g' B := by
  replace h : Keeps a x B := h.keeps_ext
  rcases l with _ | ⟨a0, _ | ⟨b, rest⟩⟩
  · rw [generateAppendCall_nil_eq] at e
    try simp only [IRGenerator.NewAlloca, IRGenerator.NewLoad, IRGenerator.NewBin, IRGenerator.NewICmp, IRGenerator.NewFCmp, IRGenerator.NewGetElementPtr, IRGenerator.funcValue, NewCall_func, IRGenerator.NewCall, IRGenerator.NewZExt, IRGenerator.NewSelect, IRGenerator.NewBr, IRGenerator.NewCondBr, IRGenerator.NewRet, IRGenerator.NewUnreachable, IRGenerator.NewFunc, IRGenerator.NewGlobalDef] at e
    repeat' (first
      | (first | (revert e; with_reducible apply (Keeps.keeps_less ∘ (h.keeps_asResult)); done) | (revert e; with_reducible apply (Keeps.keeps_less ∘ (h.keeps_failWith)); done) | (revert e; with_reducible apply (Keeps.keeps_less ∘ (h.keeps_NewInst)); done) | (revert e; with_reducible apply (Keeps.keeps_less ∘ (h.keeps_NewStore)); done) | (revert e; with_reducible apply (Keeps.keeps_less ∘ (h.keeps_NewTerm)); done) | (revert e; with_reducible apply (Keeps.keeps_less ∘ (h.keeps_NewInstAt)); done) | (revert e; with_reducible apply (Keeps.keeps_less ∘ (h.keeps_NewStoreAt)); done) | (revert e; with_reducible apply (Keeps.keeps_less ∘ (h.keeps_NewTermAt)); done) | (revert e; with_reducible apply (Keeps.keeps_less ∘ (h.keeps_NewBlock)); done) | (revert e; with_reducible apply (Keeps.keeps_less ∘ (h.keeps_NewBlockIn)); done) | fail)
      | (apply stepWith e; (focus (with_reducible apply (@ite_ok _ _ _ _ _ _); done)); intro e2
         clear e
         rcases e2 with ⟨hc, e⟩ | ⟨hc, e⟩ <;>
         try (apply stepWith hc; (focus (with_reducible apply (h.keeps_inFuncNot); done)); intro i1))
      | (simp only [bind_assoc, pure_bind] at e)
      | (rw [bind_ok] at e
         obtain ⟨⟨x1, g1⟩, e1, e⟩ := e
         try dsimp only at e
         try (apply stepWith e1; (focus (with_reducible apply (h.keeps_inFuncNew); done)); intro f0)
         try (apply stepWith e1; (focus (with_reducible apply (h.keeps_ownedNew); done)); intro f1)
         try (apply stepWith e1; (focus (with_reducible apply (ptrVal_of_NewInst); done)); intro f2)
         first
           | (apply stepWith e1; (focus (with_reducible apply (h.keeps_NewInst); done)); clear h; intro h) | (apply stepWith e1; (focus (with_reducible apply (h.keeps_NewStore); done)); clear h; intro h) | (apply stepWith e1; (focus (with_reducible apply (h.keeps_NewTerm); done)); clear h; intro h) | (apply stepWith e1; (focus (with_reducible apply (h.keeps_NewInstAt); done)); clear h; intro h) | (apply stepWith e1; (focus (with_reducible apply (h.keeps_NewStoreAt); done)); clear h; intro h) | (apply stepWith e1; (focus (with_reducible apply (h.keeps_NewTermAt); done)); clear h; intro h) | (apply stepWith e1; (focus (with_reducible apply (h.keeps_NewBlock); done)); clear h; intro h) | (apply stepWith e1; (focus (with_reducible apply (h.keeps_NewBlockIn); done)); clear h; intro h)
           | (cases e1)
           | (refine Keeps.keeps_cutFrom h (b := g1) ?_ ?_ <;>
               first | (intro h2; clear h e1; rename' h2 => h) | (clear e; rename' e1 => e))
           | fail)
      | (split at e <;>
         try (rename_i heq
              try (apply stepWith heq; (focus (with_reducible apply (h.keeps_inFunc); done)); intro i2)
              try (apply stepWith heq; (focus (with_reducible apply (h.keeps_curFunc); done)); intro i3)
              try (first | (apply stepWith heq; (focus (with_reducible apply (h.keeps_NewInst); done)); clear h; intro h) | (apply stepWith heq; (focus (with_reducible apply (h.keeps_NewStore); done)); clear h; intro h) | (apply stepWith heq; (focus (with_reducible apply (h.keeps_NewTerm); done)); clear h; intro h) | (apply stepWith heq; (focus (with_reducible apply (h.keeps_NewInstAt); done)); clear h; intro h) | (apply stepWith heq; (focus (with_reducible apply (h.keeps_NewStoreAt); done)); clear h; intro h) | (apply stepWith heq; (focus (with_reducible apply (h.keeps_NewTermAt); done)); clear h; intro h) | (apply stepWith heq; (focus (with_reducible apply (h.keeps_NewBlock); done)); clear h; intro h) | (apply stepWith heq; (focus (with_reducible apply (h.keeps_NewBlockIn); done)); clear h; intro h) | fail)))
      | (cases e; first | done | exact Keeps.keeps_less (Keeps.keeps_ext h) | fail)
      | (dsimp only at e)
      | fail)
  · rw [generateAppendCall_one_eq] at e
    try simp only [IRGenerator.NewAlloca, IRGenerator.NewLoad, IRGenerator.NewBin, IRGenerator.NewICmp, IRGenerator.NewFCmp, IRGenerator.NewGetElementPtr, IRGenerator.funcValue, NewCall_func, IRGenerator.NewCall, IRGenerator.NewZExt, IRGenerator.NewSelect, IRGenerator.NewBr, IRGenerator.NewCondBr, IRGenerator.NewRet, IRGenerator.NewUnreachable, IRGenerator.NewFunc, IRGenerator.NewGlobalDef] at e
    repeat' (first
      | (first | (revert e; with_reducible apply (Keeps.keeps_less ∘ (h.keeps_asResult)); done) | (revert e; with_reducible apply (Keeps.keeps_less ∘ (h.keeps_failWith)); done) | (revert e; with_reducible apply (Keeps.keeps_less ∘ (h.keeps_NewInst)); done) | (revert e; with_reducible apply (Keeps.keeps_less ∘ (h.keeps_NewStore)); done) | (revert e; with_reducible apply (Keeps.keeps_less ∘ (h.keeps_NewTerm)); done) | (revert e; with_reducible apply (Keeps.keeps_less ∘ (h.keeps_NewInstAt)); done) | (revert e; with_reducible apply (Keeps.keeps_less ∘ (h.keeps_NewStoreAt)); done) | (revert e; with_reducible apply (Keeps.keeps_less ∘ (h.keeps_NewTermAt)); done) | (revert e; with_reducible apply (Keeps.keeps_less ∘ (h.keeps_NewBlock)); done) | (revert e; with_reducible apply (Keeps.keeps_less ∘ (h.keeps_NewBlockIn)); done) | fail)
      | (apply stepWith e; (focus (with_reducible apply (@ite_ok _ _ _ _ _ _); done)); intro e2
         clear e
         rcases e2 with ⟨hc, e⟩ | ⟨hc, e⟩ <;>
         try (apply stepWith hc; (focus (with_reducible apply (h.keeps_inFuncNot); done)); intro i1))
      | (simp only [bind_assoc, pure_bind] at e)
      | (rw [bind_ok] at e
         obtain ⟨⟨x1, g1⟩, e1, e⟩ := e
         try dsimp only at e
         try (apply stepWith e1; (focus (with_reducible apply (h.keeps_inFuncNew); done)); intro f0)
         try (apply stepWith e1; (focus (with_reducible apply (h.keeps_ownedNew); done)); intro f1)
         try (apply stepWith e1; (focus (with_reducible apply (ptrVal_of_NewInst); done)); intro f2)
         first
           | (apply stepWith e1; (focus (with_reducible apply (h.keeps_NewInst); done)); clear h; intro h) | (apply stepWith e1; (focus (with_reducible apply (h.keeps_NewStore); done)); clear h; intro h) | (apply stepWith e1; (focus (with_reducible apply (h.keeps_NewTerm); done)); clear h; intro h) | (apply stepWith e1; (focus (with_reducible apply (h.keeps_NewInstAt); done)); clear h; intro h) | (apply stepWith e1; (focus (with_reducible apply (h.keeps_NewStoreAt); done)); clear h; intro h) | (apply stepWith e1; (focus (with_reducible apply (h.keeps_NewTermAt); done)); clear h; intro h) | (apply stepWith e1; (focus (with_reducible apply (h.keeps_NewBlock); done)); clear h; intro h) | (apply stepWith e1; (focus (with_reducible apply (h.keeps_NewBlockIn); done)); clear h; intro h)
           | (cases e1)
           | (refine Keeps.keeps_cutFrom h (b := g1) ?_ ?_ <;>
               first | (intro h2; clear h e1; rename' h2 => h) | (clear e; rename' e1 => e))
           | fail)
      | (split at e <;>
         try (rename_i heq
              try (apply stepWith heq; (focus (with_reducible apply (h.keeps_inFunc); done)); intro i2)
              try (apply stepWith heq; (focus (with_reducible apply (h.keeps_curFunc); done)); intro i3)
              try (first | (apply stepWith heq; (focus (with_reducible apply (h.keeps_NewInst); done)); clear h; intro h) | (apply stepWith heq; (focus (with_reducible apply (h.keeps_NewStore); done)); clear h; intro h) | (apply stepWith heq; (focus (with_reducible apply (h.keeps_NewTerm); done)); clear h; intro h) | (apply stepWith heq; (focus (with_reducible apply (h.keeps_NewInstAt); done)); clear h; intro h) | (apply stepWith heq; (focus (with_reducible apply (h.keeps_NewStoreAt); done)); clear h; intro h) | (apply stepWith heq; (focus (with_reducible apply (h.keeps_NewTermAt); done)); clear h; intro h) | (apply stepWith heq; (focus (with_reducible apply (h.keeps_NewBlock); done)); clear h; intro h) | (apply stepWith heq; (focus (with_reducible apply (h.keeps_NewBlockIn); done)); clear h; intro h) | fail)))
      | (cases e; first | done | exact Keeps.keeps_less (Keeps.keeps_ext h) | fail)
      | (dsimp only at e)
      | fail)
  · rw [generateAppendCall_more_eq] at e
    have ih0 := ih _ (List.mem_cons_self _ _)
    have iht : ∀ e ∈ b :: rest, ExprKept e := fun e he => ih e (List.mem_cons_of_mem _ he)
    try simp only [IRGenerator.NewAlloca, IRGenerator.NewLoad, IRGenerator.NewBin, IRGenerator.NewICmp, IRGenerator.NewFCmp, IRGenerator.NewGetElementPtr, IRGenerator.funcValue, NewCall_func, IRGenerator.NewCall, IRGenerator.NewZExt, IRGenerator.NewSelect, IRGenerator.NewBr, IRGenerator.NewCondBr, IRGenerator.NewRet, IRGenerator.NewUnreachable, IRGenerator.NewFunc, IRGenerator.NewGlobalDef] at e
    repeat' (first
      | (first | (revert e; with_reducible apply (Keeps.keeps_less ∘ (h.keeps_asResult)); done) | (revert e; with_reducible apply (Keeps.keeps_less ∘ (h.keeps_failWith)); done) | (revert e; with_reducible apply (Keeps.keeps_less ∘ (h.keeps_NewInst)); done) | (revert e; with_reducible apply (Keeps.keeps_less ∘ (h.keeps_NewStore)); done) | (revert e; with_reducible apply (Keeps.keeps_less ∘ (h.keeps_NewTerm)); done) | (revert e; with_reducible apply (Keeps.keeps_less ∘ (h.keeps_NewInstAt)); done) | (revert e; with_reducible apply (Keeps.keeps_less ∘ (h.keeps_NewStoreAt)); done) | (revert e; with_reducible apply (Keeps.keeps_less ∘ (h.keeps_NewTermAt)); done) | (revert e; with_reducible apply (Keeps.keeps_less ∘ (h.keeps_NewBlock)); done) | (revert e; with_reducible apply (Keeps.keeps_less ∘ (h.keeps_NewBlockIn)); done) | (revert e; with_reducible apply (Keeps.keeps_less ∘ (ih0.keeps h)); done) | (revert e; with_reducible apply (Keeps.keeps_less ∘ (h.keeps_appendPrologueMade)); done) | (revert e; with_reducible apply (Keeps.keeps_less ∘ (Keeps.keeps_appendElements iht h)); done) | (revert e; with_reducible apply (Keeps.keeps_less ∘ (h.keeps_appendEpilogue)); done) | fail)
      | (apply stepWith e; (focus (with_reducible apply (@ite_ok _ _ _ _ _ _); done)); intro e2
         clear e
         rcases e2 with ⟨hc, e⟩ | ⟨hc, e⟩ <;>
         try (apply stepWith hc; (focus (with_reducible apply (h.keeps_inFuncNot); done)); intro i1))
      | (simp only [bind_assoc, pure_bind] at e)
      | (rw [bind_ok] at e
         obtain ⟨⟨x1, g1⟩, e1, e⟩ := e
         try dsimp only at e
         try (apply stepWith e1; (focus (with_reducible apply (h.keeps_inFuncNew); done)); intro f0)
         try (apply stepWith e1; (focus (with_reducible apply (h.keeps_ownedNew); done)); intro f1)
         try (apply stepWith e1; (focus (with_reducible apply (ptrVal_of_NewInst); done)); intro f2)
         try (apply stepWith e1; (focus (with_reducible apply (h.keeps_appendPrologueBlock); done)); intro f3)
         try (apply stepWith e1; (focus (with_reducible apply (h.keeps_appendPrologueInFunc); done)); intro f4)
         first
           | (apply stepWith e1; (focus (with_reducible apply (h.keeps_NewInst); done)); clear h; intro h) | (apply stepWith e1; (focus (with_reducible apply (h.keeps_NewStore); done)); clear h; intro h) | (apply stepWith e1; (focus (with_reducible apply (h.keeps_NewTerm); done)); clear h; intro h) | (apply stepWith e1; (focus (with_reducible apply (h.keeps_NewInstAt); done)); clear h; intro h) | (apply stepWith e1; (focus (with_reducible apply (h.keeps_NewStoreAt); done)); clear h; intro h) | (apply stepWith e1; (focus (with_reducible apply (h.keeps_NewTermAt); done)); clear h; intro h) | (apply stepWith e1; (focus (with_reducible apply (h.keeps_NewBlock); done)); clear h; intro h) | (apply stepWith e1; (focus (with_reducible apply (h.keeps_NewBlockIn); done)); clear h; intro h) | (apply stepWith e1; (focus (with_reducible apply (ih0.keeps h); done)); clear h; intro h) | (apply stepWith e1; (focus (with_reducible apply (h.keeps_appendPrologueMade); done)); clear h; intro h) | (apply stepWith e1; (focus (with_reducible apply (Keeps.keeps_appendElements iht h); done)); clear h; intro h) | (apply stepWith e1; (focus (with_reducible apply (h.keeps_appendEpilogue); done)); clear h; intro h)
           | (cases e1)
           | (refine Keeps.keeps_cutFrom h (b := g1) ?_ ?_ <;>
               first | (intro h2; clear h e1; rename' h2 => h) | (clear e; rename' e1 => e))
           | fail)
      | (split at e <;>
         try (rename_i heq
              try (apply stepWith heq; (focus (with_reducible apply (h.keeps_inFunc); done)); intro i2)
              try (apply stepWith heq; (focus (with_reducible apply (h.keeps_curFunc); done)); intro i3)
              try (first | (apply stepWith heq; (focus (with_reducible apply (h.keeps_NewInst); done)); clear h; intro h) | (apply stepWith heq; (focus (with_reducible apply (h.keeps_NewStore); done)); clear h; intro h) | (apply stepWith heq; (focus (with_reducible apply (h.keeps_NewTerm); done)); clear h; intro h) | (apply stepWith heq; (focus (with_reducible apply (h.keeps_NewInstAt); done)); clear h; intro h) | (apply stepWith heq; (focus (with_reducible apply (h.keeps_NewStoreAt); done)); clear h; intro h) | (apply stepWith heq; (focus (with_reducible apply (h.keeps_NewTermAt); done)); clear h; intro h) | (apply stepWith heq; (focus (with_reducible apply (h.keeps_NewBlock); done)); clear h; intro h) | (apply stepWith heq; (focus (with_reducible apply (h.keeps_NewBlockIn); done)); clear h; intro h) | (apply stepWith heq; (focus (with_reducible apply (ih0.keeps h); done)); clear h; intro h) | (apply stepWith heq; (focus (with_reducible apply (h.keeps_appendPrologueMade); done)); clear h; intro h) | (apply stepWith heq; (focus (with_reducible apply (Keeps.keeps_appendElements iht h); done)); clear h; intro h) | (apply stepWith heq; (focus (with_reducible apply (h.keeps_appendEpilogue); done)); clear h; intro h) | fail)))
      | (cases e; first | done | exact Keeps.keeps_less (Keeps.keeps_ext h) | fail)
      | (dsimp only at e)
      | fail)

theorem Keeps.keeps_generateMakeCall {l : List Expression} (ih : ∀ e ∈ l, ExprKept e)
    {a g x g' : IRGenerator} {B : List Nat} [KExt a g x B] {r : Option Value} (h : Keeps a g B)
    (e : generateMakeCall l x = .ok (r, g')) : Keeps a g' B := by
  replace h : Keeps a x B := h.keeps_ext
  rcases l with _ | ⟨t, _ | ⟨b, _ | ⟨c, rest⟩⟩⟩
  · rw [generateMakeCall_nil_eq] at e
    try simp only [IRGenerator.NewAlloca, IRGenerator.NewLoad, IRGenerator.NewBin, IRGenerator.NewICmp, IRGenerator.NewFCmp, IRGenerator.NewGetElementPtr, IRGenerator.funcValue, NewCall_func, IRGenerator.NewCall, IRGenerator.NewZExt, IRGenerator.NewSelect, IRGenerator.NewBr, IRGenerator.NewCondBr, IRGenerator.NewRet, IRGenerator.NewUnreachable, IRGenerator.NewFunc, IRGenerator.NewGlobalDef] at e
    repeat' (first
      | (first | (revert e; with_reducible apply (Keeps.keeps_less ∘ (h.keeps_asResult)); done) | (revert e; with_reducible apply (Keeps.keeps_less ∘ (h.keeps_failWith)); done) | (revert e; with_reducible apply (Keeps.keeps_less ∘ (h.keeps_NewInst)); done) | (revert e; with_reducible apply (Keeps.keeps_less ∘ (h.keeps_NewStore)); done) | (revert e; with_reducible apply (Keeps.keeps_less ∘ (h.keeps_NewTerm)); done) | (revert e; with_reducible apply (Keeps.keeps_less ∘ (h.keeps_NewInstAt)); done) | (revert e; with_reducible apply (Keeps.keeps_less ∘ (h.keeps_NewStoreAt)); done) | (revert e; with_reducible apply (Keeps.keeps_less ∘ (h.keeps_NewTermAt)); done) | (revert e; with_reducible apply (Keeps.keeps_less ∘ (h.keeps_NewBlock)); done) | (revert e; with_reducible apply (Keeps.keeps_less ∘ (h.keeps_NewBlockIn)); done) | fail)
      | (apply stepWith e; (focus (with_reducible apply (@ite_ok _ _ _ _ _ _); done)); intro e2
         clear e
         rcases e2 with ⟨hc, e⟩ | ⟨hc, e⟩ <;>
         try (apply stepWith hc; (focus (with_reducible apply (h.keeps_inFuncNot); done)); intro i1))
      | (simp only [bind_assoc, pure_bind] at e)
      | (rw [bind_ok] at e
         obtain ⟨⟨x1, g1⟩, e1, e⟩ := e
         try dsimp only at e
         try (apply stepWith e1; (focus (with_reducible apply (h.keeps_inFuncNew); done)); intro f0)
         try (apply stepWith e1; (focus (with_reducible apply (h.keeps_ownedNew); done)); intro f1)
         try (apply stepWith e1; (focus (with_reducible apply (ptrVal_of_NewInst); done)); intro f2)
         first
           | (apply stepWith e1; (focus (with_reducible apply (h.keeps_NewInst); done)); clear h; intro h) | (apply stepWith e1; (focus (with_reducible apply (h.keeps_NewStore); done)); clear h; intro h) | (apply stepWith e1; (focus (with_reducible apply (h.keeps_NewTerm); done)); clear h; intro h) | (apply stepWith e1; (focus (with_reducible apply (h.keeps_NewInstAt); done)); clear h; intro h) | (apply stepWith e1; (focus (with_reducible apply (h.keeps_NewStoreAt); done)); clear h; intro h) | (apply stepWith e1; (focus (with_reducible apply (h.keeps_NewTermAt); done)); clear h; intro h) | (apply stepWith e1; (focus (with_reducible apply (h.keeps_NewBlock); done)); clear h; intro h) | (apply stepWith e1; (focus (with_reducible apply (h.keeps_NewBlockIn); done)); clear h; intro h)
           | (cases e1)
           | (refine Keeps.keeps_cutFrom h (b := g1) ?_ ?_ <;>
               first | (intro h2; clear h e1; rename' h2 => h) | (clear e; rename' e1 => e))
           | fail)
      | (split at e <;>
         try (rename_i heq
              try (apply stepWith heq; (focus (with_reducible apply (h.keeps_inFunc); done)); intro i2)
              try (apply stepWith heq; (focus (with_reducible apply (h.keeps_curFunc); done)); intro i3)
              try (first | (apply stepWith heq; (focus (with_reducible apply (h.keeps_NewInst); done)); clear h; intro h) | (apply stepWith heq; (focus (with_reducible apply (h.keeps_NewStore); done)); clear h; intro h) | (apply stepWith heq; (focus (with_reducible apply (h.keeps_NewTerm); done)); clear h; intro h) | (apply stepWith heq; (focus (with_reducible apply (h.keeps_NewInstAt); done)); clear h; intro h) | (apply stepWith heq; (focus (with_reducible apply (h.keeps_NewStoreAt); done)); clear h; intro h) | (apply stepWith heq; (focus (with_reducible apply (h.keeps_NewTermAt); done)); clear h; intro h) | (apply stepWith heq; (focus (with_reducible apply (h.keeps_NewBlock); done)); clear h; intro h) | (apply stepWith heq; (focus (with_reducible apply (h.keeps_NewBlockIn); done)); clear h; intro h) | fail)))
      | (cases e; first | done | exact Keeps.keeps_less (Keeps.keeps_ext h) | fail)
      | (dsimp only at e)
      | fail)
  · rw [generateMakeCall_cons_eq] at e
    try simp only [IRGenerator.NewAlloca, IRGenerator.NewLoad, IRGenerator.NewBin, IRGenerator.NewICmp, IRGenerator.NewFCmp, IRGenerator.NewGetElementPtr, IRGenerator.funcValue, NewCall_func, IRGenerator.NewCall, IRGenerator.NewZExt, IRGenerator.NewSelect, IRGenerator.NewBr, IRGenerator.NewCondBr, IRGenerator.NewRet, IRGenerator.NewUnreachable, IRGenerator.NewFunc, IRGenerator.NewGlobalDef] at e
    repeat' (first
      | (first | (revert e; with_reducible apply (Keeps.keeps_less ∘ (h.keeps_asResult)); done) | (revert e; with_reducible apply (Keeps.keeps_less ∘ (h.keeps_failWith)); done) | (revert e; with_reducible apply (Keeps.keeps_less ∘ (h.keeps_NewInst)); done) | (revert e; with_reducible apply (Keeps.keeps_less ∘ (h.keeps_NewStore)); done) | (revert e; with_reducible apply (Keeps.keeps_less ∘ (h.keeps_NewTerm)); done) | (revert e; with_reducible apply (Keeps.keeps_less ∘ (h.keeps_NewInstAt)); done) | (revert e; with_reducible apply (Keeps.keeps_less ∘ (h.keeps_NewStoreAt)); done) | (revert e; with_reducible apply (Keeps.keeps_less ∘ (h.keeps_NewTermAt)); done) | (revert e; with_reducible apply (Keeps.keeps_less ∘ (h.keeps_NewBlock)); done) | (revert e; with_reducible apply (Keeps.keeps_less ∘ (h.keeps_NewBlockIn)); done) | fail)
      | (apply stepWith e; (focus (with_reducible apply (@ite_ok _ _ _ _ _ _); done)); intro e2
         clear e
         rcases e2 with ⟨hc, e⟩ | ⟨hc, e⟩ <;>
         try (apply stepWith hc; (focus (with_reducible apply (h.keeps_inFuncNot); done)); intro i1))
      | (simp only [bind_assoc, pure_bind] at e)
      | (rw [bind_ok] at e
         obtain ⟨⟨x1, g1⟩, e1, e⟩ := e
         try dsimp only at e
         try (apply stepWith e1; (focus (with_reducible apply (h.keeps_inFuncNew); done)); intro f0)
         try (apply stepWith e1; (focus (with_reducible apply (h.keeps_ownedNew); done)); intro f1)
         try (apply stepWith e1; (focus (with_reducible apply (ptrVal_of_NewInst); done)); intro f2)
         first
           | (apply stepWith e1; (focus (with_reducible apply (h.keeps_NewInst); done)); clear h; intro h) | (apply stepWith e1; (focus (with_reducible apply (h.keeps_NewStore); done)); clear h; intro h) | (apply stepWith e1; (focus (with_reducible apply (h.keeps_NewTerm); done)); clear h; intro h) | (apply stepWith e1; (focus (with_reducible apply (h.keeps_NewInstAt); done)); clear h; intro h) | (apply stepWith e1; (focus (with_reducible apply (h.keeps_NewStoreAt); done)); clear h; intro h) | (apply stepWith e1; (focus (with_reducible apply (h.keeps_NewTermAt); done)); clear h; intro h) | (apply stepWith e1; (focus (with_reducible apply (h.keeps_NewBlock); done)); clear h; intro h) | (apply stepWith e1; (focus (with_reducible apply (h.keeps_NewBlockIn); done)); clear h; intro h)
           | (cases e1)
           | (refine Keeps.keeps_cutFrom h (b := g1) ?_ ?_ <;>
               first | (intro h2; clear h e1; rename' h2 => h) | (clear e; rename' e1 => e))
           | fail)
      | (split at e <;>
         try (rename_i heq
              try (apply stepWith heq; (focus (with_reducible apply (h.keeps_inFunc); done)); intro i2)
              try (apply stepWith heq; (focus (with_reducible apply (h.keeps_curFunc); done)); intro i3)
              try (first | (apply stepWith heq; (focus (with_reducible apply (h.keeps_NewInst); done)); clear h; intro h) | (apply stepWith heq; (focus (with_reducible apply (h.keeps_NewStore); done)); clear h; intro h) | (apply stepWith heq; (focus (with_reducible apply (h.keeps_NewTerm); done)); clear h; intro h) | (apply stepWith heq; (focus (with_reducible apply (h.keeps_NewInstAt); done)); clear h; intro h) | (apply stepWith heq; (focus (with_reducible apply (h.keeps_NewStoreAt); done)); clear h; intro h) | (apply stepWith heq; (focus (with_reducible apply (h.keeps_NewTermAt); done)); clear h; intro h) | (apply stepWith heq; (focus (with_reducible apply (h.keeps_NewBlock); done)); clear h; intro h) | (apply stepWith heq; (focus (with_reducible apply (h.keeps_NewBlockIn); done)); clear h; intro h) | fail)))
      | (cases e; first | done | exact Keeps.keeps_less (Keeps.keeps_ext h) | fail)
      | (dsimp only at e)
      | fail)
  · rw [generateMakeCall_cons_eq] at e
    have ih1 := ih _ (List.mem_cons_of_mem _ (List.mem_cons_self _ _))
    try simp only [IRGenerator.NewAlloca, IRGenerator.NewLoad, IRGenerator.NewBin, IRGenerator.NewICmp, IRGenerator.NewFCmp, IRGenerator.NewGetElementPtr, IRGenerator.funcValue, NewCall_func, IRGenerator.NewCall, IRGenerator.NewZExt, IRGenerator.NewSelect, IRGenerator.NewBr, IRGenerator.NewCondBr, IRGenerator.NewRet, IRGenerator.NewUnreachable, IRGenerator.NewFunc, IRGenerator.NewGlobalDef] at e
    repeat' (first
      | (first | (revert e; with_reducible apply (Keeps.keeps_less ∘ (h.keeps_asResult)); done) | (revert e; with_reducible apply (Keeps.keeps_less ∘ (h.keeps_failWith)); done) | (revert e; with_reducible apply (Keeps.keeps_less ∘ (h.keeps_NewInst)); done) | (revert e; with_reducible apply (Keeps.keeps_less ∘ (h.keeps_NewStore)); done) | (revert e; with_reducible apply (Keeps.keeps_less ∘ (h.keeps_NewTerm)); done) | (revert e; with_reducible apply (Keeps.keeps_less ∘ (h.keeps_NewInstAt)); done) | (revert e; with_reducible apply (Keeps.keeps_less ∘ (h.keeps_NewStoreAt)); done) | (revert e; with_reducible apply (Keeps.keeps_less ∘ (h.keeps_NewTermAt)); done) | (revert e; with_reducible apply (Keeps.keeps_less ∘ (h.keeps_NewBlock)); done) | (revert e; with_reducible apply (Keeps.keeps_less ∘ (h.keeps_NewBlockIn)); done) | (revert e; with_reducible apply (Keeps.keeps_less ∘ (ih1.keeps h)); done) | (revert e; with_reducible apply (Keeps.keeps_less ∘ (h.keeps_makeSlice)); done) | fail)
      | (apply stepWith e; (focus (with_reducible apply (@ite_ok _ _ _ _ _ _); done)); intro e2
         clear e
         rcases e2 with ⟨hc, e⟩ | ⟨hc, e⟩ <;>
         try (apply stepWith hc; (focus (with_reducible apply (h.keeps_inFuncNot); done)); intro i1))
      | (simp only [bind_assoc, pure_bind] at e)
      | (rw [bind_ok] at e
         obtain ⟨⟨x1, g1⟩, e1, e⟩ := e
         try dsimp only at e
         try (apply stepWith e1; (focus (with_reducible apply (h.keeps_inFuncNew); done)); intro f0)
         try (apply stepWith e1; (focus (with_reducible apply (h.keeps_ownedNew); done)); intro f1)
         try (apply stepWith e1; (focus (with_reducible apply (ptrVal_of_NewInst); done)); intro f2)
         first
           | (apply stepWith e1; (focus (with_reducible apply (h.keeps_NewInst); done)); clear h; intro h) | (apply stepWith e1; (focus (with_reducible apply (h.keeps_NewStore); done)); clear h; intro h) | (apply stepWith e1; (focus (with_reducible apply (h.keeps_NewTerm); done)); clear h; intro h) | (apply stepWith e1; (focus (with_reducible apply (h.keeps_NewInstAt); done)); clear h; intro h) | (apply stepWith e1; (focus (with_reducible apply (h.keeps_NewStoreAt); done)); clear h; intro h) | (apply stepWith e1; (focus (with_reducible apply (h.keeps_NewTermAt); done)); clear h; intro h) | (apply stepWith e1; (focus (with_reducible apply (h.keeps_NewBlock); done)); clear h; intro h) | (apply stepWith e1; (focus (with_reducible apply (h.keeps_NewBlockIn); done)); clear h; intro h) | (apply stepWith e1; (focus (with_reducible apply (ih1.keeps h); done)); clear h; intro h) | (apply stepWith e1; (focus (with_reducible apply (h.keeps_makeSlice); done)); clear h; intro h)
           | (cases e1)
           | (refine Keeps.keeps_cutFrom h (b := g1) ?_ ?_ <;>
               first | (intro h2; clear h e1; rename' h2 => h) | (clear e; rename' e1 => e))
           | fail)
      | (split at e <;>
         try (rename_i heq
              try (apply stepWith heq; (focus (with_reducible apply (h.keeps_inFunc); done)); intro i2)
              try (apply stepWith heq; (focus (with_reducible apply (h.keeps_curFunc); done)); intro i3)
              try (first | (apply stepWith heq; (focus (with_reducible apply (h.keeps_NewInst); done)); clear h; intro h) | (apply stepWith heq; (focus (with_reducible apply (h.keeps_NewStore); done)); clear h; intro h) | (apply stepWith heq; (focus (with_reducible apply (h.keeps_NewTerm); done)); clear h; intro h) | (apply stepWith heq; (focus (with_reducible apply (h.keeps_NewInstAt); done)); clear h; intro h) | (apply stepWith heq; (focus (with_reducible apply (h.keeps_NewStoreAt); done)); clear h; intro h) | (apply stepWith heq; (focus (with_reducible apply (h.keeps_NewTermAt); done)); clear h; intro h) | (apply stepWith heq; (focus (with_reducible apply (h.keeps_NewBlock); done)); clear h; intro h) | (apply stepWith heq; (focus (with_reducible apply (h.keeps_NewBlockIn); done)); clear h; intro h) | (apply stepWith heq; (focus (with_reducible apply (ih1.keeps h); done)); clear h; intro h) | (apply stepWith heq; (focus (with_reducible apply (h.keeps_makeSlice); done)); clear h; intro h) | fail)))
      | (cases e; first | done | exact Keeps.keeps_less (Keeps.keeps_ext h) | fail)
      | (dsimp only at e)
      | fail)
  · rw [generateMakeCall_cons_eq] at e
    have ih1 := ih _ (List.mem_cons_of_mem _ (List.mem_cons_self _ _))
    have ih2 := ih _ (List.mem_cons_of_mem _ (List.mem_cons_of_mem _ (List.mem_cons_self _ _)))
    try simp only [IRGenerator.NewAlloca, IRGenerator.NewLoad, IRGenerator.NewBin, IRGenerator.NewICmp, IRGenerator.NewFCmp, IRGenerator.NewGetElementPtr, IRGenerator.funcValue, NewCall_func, IRGenerator.NewCall, IRGenerator.NewZExt, IRGenerator.NewSelect, IRGenerator.NewBr, IRGenerator.NewCondBr, IRGenerator.NewRet, IRGenerator.NewUnreachable, IRGenerator.NewFunc, IRGenerator.NewGlobalDef] at e
    repeat' (first
      | (first | (revert e; with_reducible apply (Keeps.keeps_less ∘ (h.keeps_asResult)); done) | (revert e; with_reducible apply (Keeps.keeps_less ∘ (h.keeps_failWith)); done) | (revert e; with_reducible apply (Keeps.keeps_less ∘ (h.keeps_NewInst)); done) | (revert e; with_reducible apply (Keeps.keeps_less ∘ (h.keeps_NewStore)); done) | (revert e; with_reducible apply (Keeps.keeps_less ∘ (h.keeps_NewTerm)); done) | (revert e; with_reducible apply (Keeps.keeps_less ∘ (h.keeps_NewInstAt)); done) | (revert e; with_reducible apply (Keeps.keeps_less ∘ (h.keeps_NewStoreAt)); done) | (revert e; with_reducible apply (Keeps.keeps_less ∘ (h.keeps_NewTermAt)); done) | (revert e; with_reducible apply (Keeps.keeps_less ∘ (h.keeps_NewBlock)); done) | (revert e; with_reducible apply (Keeps.keeps_less ∘ (h.keeps_NewBlockIn)); done) | (revert e; with_reducible apply (Keeps.keeps_less ∘ (ih1.keeps h)); done) | (revert e; with_reducible apply (Keeps.keeps_less ∘ (ih2.keeps h)); done) | (revert e; with_reducible apply (Keeps.keeps_less ∘ (h.keeps_makeSlice)); done) | fail)
      | (apply stepWith e; (focus (with_reducible apply (@ite_ok _ _ _ _ _ _); done)); intro e2
         clear e
         rcases e2 with ⟨hc, e⟩ | ⟨hc, e⟩ <;>
         try (apply stepWith hc; (focus (with_reducible apply (h.keeps_inFuncNot); done)); intro i1))
      | (simp only [bind_assoc, pure_bind] at e)
      | (rw [bind_ok] at e
         obtain ⟨⟨x1, g1⟩, e1, e⟩ := e
         try dsimp only at e
         try (apply stepWith e1; (focus (with_reducible apply (h.keeps_inFuncNew); done)); intro f0)
         try (apply stepWith e1; (focus (with_reducible apply (h.keeps_ownedNew); done)); intro f1)
         try (apply stepWith e1; (focus (with_reducible apply (ptrVal_of_NewInst); done)); intro f2)
         first
           | (apply stepWith e1; (focus (with_reducible apply (h.keeps_NewInst); done)); clear h; intro h) | (apply stepWith e1; (focus (with_reducible apply (h.keeps_NewStore); done)); clear h; intro h) | (apply stepWith e1; (focus (with_reducible apply (h.keeps_NewTerm); done)); clear h; intro h) | (apply stepWith e1; (focus (with_reducible apply (h.keeps_NewInstAt); done)); clear h; intro h) | (apply stepWith e1; (focus (with_reducible apply (h.keeps_NewStoreAt); done)); clear h; intro h) | (apply stepWith e1; (focus (with_reducible apply (h.keeps_NewTermAt); done)); clear h; intro h) | (apply stepWith e1; (focus (with_reducible apply (h.keeps_NewBlock); done)); clear h; intro h) | (apply stepWith e1; (focus (with_reducible apply (h.keeps_NewBlockIn); done)); clear h; intro h) | (apply stepWith e1; (focus (with_reducible apply (ih1.keeps h); done)); clear h; intro h) | (apply stepWith e1; (focus (with_reducible apply (ih2.keeps h); done)); clear h; intro h) | (apply stepWith e1; (focus (with_reducible apply (h.keeps_makeSlice); done)); clear h; intro h)
           | (cases e1)
           | (refine Keeps.keeps_cutFrom h (b := g1) ?_ ?_ <;>
               first | (intro h2; clear h e1; rename' h2 => h) | (clear e; rename' e1 => e))
           | fail)
      | (split at e <;>
         try (rename_i heq
              try (apply stepWith heq; (focus (with_reducible apply (h.keeps_inFunc); done)); intro i2)
              try (apply stepWith heq; (focus (with_reducible apply (h.keeps_curFunc); done)); intro i3)
              try (first | (apply stepWith heq; (focus (with_reducible apply (h.keeps_NewInst); done)); clear h; intro h) | (apply stepWith heq; (focus (with_reducible apply (h.keeps_NewStore); done)); clear h; intro h) | (apply stepWith heq; (focus (with_reducible apply (h.keeps_NewTerm); done)); clear h; intro h) | (apply stepWith heq; (focus (with_reducible apply (h.keeps_NewInstAt); done)); clear h; intro h) | (apply stepWith heq; (focus (with_reducible apply (h.keeps_NewStoreAt); done)); clear h; intro h) | (apply stepWith heq; (focus (with_reducible apply (h.keeps_NewTermAt); done)); clear h; intro h) | (apply stepWith heq; (focus (with_reducible apply (h.keeps_NewBlock); done)); clear h; intro h) | (apply stepWith heq; (focus (with_reducible apply (h.keeps_NewBlockIn); done)); clear h; intro h) | (apply stepWith heq; (focus (with_reducible apply (ih1.keeps h); done)); clear h; intro h) | (apply stepWith heq; (focus (with_reducible apply (ih2.keeps h); done)); clear h; intro h) | (apply stepWith heq; (focus (with_reducible apply (h.keeps_makeSlice); done)); clear h; intro h) | fail)))
      | (cases e; first | done | exact Keeps.keeps_less (Keeps.keeps_ext h) | fail)
      | (dsimp only at e)
      | fail)

theorem Keeps.keeps_generateExitCall {l : List Expression} (ih : ∀ e ∈ l, ExprKept e)
    {a g x g' : IRGenerator} {B : List Nat} [KExt a g x B] {r : Option Value} (h : Keeps a g B)
    (e : generateExitCall l x = .ok (r, g')) : Keeps a g' B := by
  replace h : Keeps a x B := h.keeps_ext
  rcases l with _ | ⟨a0, rest⟩
  · rw [generateExitCall_nil_eq] at e
    try simp only [IRGenerator.NewAlloca, IRGenerator.NewLoad, IRGenerator.NewBin, IRGenerator.NewICmp, IRGenerator.NewFCmp, IRGenerator.NewGetElementPtr, IRGenerator.funcValue, NewCall_func, IRGenerator.NewCall, IRGenerator.NewZExt, IRGenerator.NewSelect, IRGenerator.NewBr, IRGenerator.NewCondBr, IRGenerator.NewRet, IRGenerator.NewUnreachable, IRGenerator.NewFunc, IRGenerator.NewGlobalDef] at e
    repeat' (first
      | (first | (revert e; with_reducible apply (Keeps.keeps_less ∘ (h.keeps_asResult)); done) | (revert e; with_reducible apply (Keeps.keeps_less ∘ (h.keeps_failWith)); done) | (revert e; with_reducible apply (Keeps.keeps_less ∘ (h.keeps_NewInst)); done) | (revert e; with_reducible apply (Keeps.keeps_less ∘ (h.keeps_NewStore)); done) | (revert e; with_reducible apply (Keeps.keeps_less ∘ (h.keeps_NewTerm)); done) | (revert e; with_reducible apply (Keeps.keeps_less ∘ (h.keeps_NewInstAt)); done) | (revert e; with_reducible apply (Keeps.keeps_less ∘ (h.keeps_NewStoreAt)); done) | (revert e; with_reducible apply (Keeps.keeps_less ∘ (h.keeps_NewTermAt)); done) | (revert e; with_reducible apply (Keeps.keeps_less ∘ (h.keeps_NewBlock)); done) | (revert e; with_reducible apply (Keeps.keeps_less ∘ (h.keeps_NewBlockIn)); done) | fail)
      | (apply stepWith e; (focus (with_reducible apply (@ite_ok _ _ _ _ _ _); done)); intro e2
         clear e
         rcases e2 with ⟨hc, e⟩ | ⟨hc, e⟩ <;>
         try (apply stepWith hc; (focus (with_reducible apply (h.keeps_inFuncNot); done)); intro i1))
      | (simp only [bind_assoc, pure_bind] at e)
      | (rw [bind_ok] at e
         obtain ⟨⟨x1, g1⟩, e1, e⟩ := e
         try dsimp only at e
         try (apply stepWith e1; (focus (with_reducible apply (h.keeps_inFuncNew); done)); intro f0)
         try (apply stepWith e1; (focus (with_reducible apply (h.keeps_ownedNew); done)); intro f1)
         try (apply stepWith e1; (focus (with_reducible apply (ptrVal_of_NewInst); done)); intro f2)
         first
           | (apply stepWith e1; (focus (with_reducible apply (h.keeps_NewInst); done)); clear h; intro h) | (apply stepWith e1; (focus (with_reducible apply (h.keeps_NewStore); done)); clear h; intro h) | (apply stepWith e1; (focus (with_reducible apply (h.keeps_NewTerm); done)); clear h; intro h) | (apply stepWith e1; (focus (with_reducible apply (h.keeps_NewInstAt); done)); clear h; intro h) | (apply stepWith e1; (focus (with_reducible apply (h.keeps_NewStoreAt); done)); clear h; intro h) | (apply stepWith e1; (focus (with_reducible apply (h.keeps_NewTermAt); done)); clear h; intro h) | (apply stepWith e1; (focus (with_reducible apply (h.keeps_NewBlock); done)); clear h; intro h) | (apply stepWith e1; (focus (with_reducible apply (h.keeps_NewBlockIn); done)); clear h; intro h)
           | (cases e1)
           | (refine Keeps.keeps_cutFrom h (b := g1) ?_ ?_ <;>
               first | (intro h2; clear h e1; rename' h2 => h) | (clear e; rename' e1 => e))
           | fail)
      | (split at e <;>
         try (rename_i heq
              try (apply stepWith heq; (focus (with_reducible apply (h.keeps_inFunc); done)); intro i2)
              try (apply stepWith heq; (focus (with_reducible apply (h.keeps_curFunc); done)); intro i3)
              try (first | (apply stepWith heq; (focus (with_reducible apply (h.keeps_NewInst); done)); clear h; intro h) | (apply stepWith heq; (focus (with_reducible apply (h.keeps_NewStore); done)); clear h; intro h) | (apply stepWith heq; (focus (with_reducible apply (h.keeps_NewTerm); done)); clear h; intro h) | (apply stepWith heq; (focus (with_reducible apply (h.keeps_NewInstAt); done)); clear h; intro h) | (apply stepWith heq; (focus (with_reducible apply (h.keeps_NewStoreAt); done)); clear h; intro h) | (apply stepWith heq; (focus (with_reducible apply (h.keeps_NewTermAt); done)); clear h; intro h) | (apply stepWith heq; (focus (with_reducible apply (h.keeps_NewBlock); done)); clear h; intro h) | (apply stepWith heq; (focus (with_reducible apply (h.keeps_NewBlockIn); done)); clear h; intro h) | fail)))
      | (cases e; first | done | exact Keeps.keeps_less (Keeps.keeps_ext h) | fail)
      | (dsimp only at e)
      | fail)
  · rw [generateExitCall_cons_eq] at e
    have ih0 := ih _ (List.mem_cons_self _ _)
    try simp only [IRGenerator.NewAlloca, IRGenerator.NewLoad, IRGenerator.NewBin, IRGenerator.NewICmp, IRGenerator.NewFCmp, IRGenerator.NewGetElementPtr, IRGenerator.funcValue, NewCall_func, IRGenerator.NewCall, IRGenerator.NewZExt, IRGenerator.NewSelect, IRGenerator.NewBr, IRGenerator.NewCondBr, IRGenerator.NewRet, IRGenerator.NewUnreachable, IRGenerator.NewFunc, IRGenerator.NewGlobalDef] at e
    repeat' (first
      | (first | (revert e; with_reducible apply (Keeps.keeps_less ∘ (h.keeps_asResult)); done) | (revert e; with_reducible apply (Keeps.keeps_less ∘ (h.keeps_failWith)); done) | (revert e; with_reducible apply (Keeps.keeps_less ∘ (h.keeps_NewInst)); done) | (revert e; with_reducible apply (Keeps.keeps_less ∘ (h.keeps_NewStore)); done) | (revert e; with_reducible apply (Keeps.keeps_less ∘ (h.keeps_NewTerm)); done) | (revert e; with_reducible apply (Keeps.keeps_less ∘ (h.keeps_NewInstAt)); done) | (revert e; with_reducible apply (Keeps.keeps_less ∘ (h.keeps_NewStoreAt)); done) | (revert e; with_reducible apply (Keeps.keeps_less ∘ (h.keeps_NewTermAt)); done) | (revert e; with_reducible apply (Keeps.keeps_less ∘ (h.keeps_NewBlock)); done) | (revert e; with_reducible apply (Keeps.keeps_less ∘ (h.keeps_NewBlockIn)); done) | (revert e; with_reducible apply (Keeps.keeps_less ∘ (ih0.keeps h)); done) | fail)
      | (apply stepWith e; (focus (with_reducible apply (@ite_ok _ _ _ _ _ _); done)); intro e2
         clear e
         rcases e2 with ⟨hc, e⟩ | ⟨hc, e⟩ <;>
         try (apply stepWith hc; (focus (with_reducible apply (h.keeps_inFuncNot); done)); intro i1))
      | (simp only [bind_assoc, pure_bind] at e)
      | (rw [bind_ok] at e
         obtain ⟨⟨x1, g1⟩, e1, e⟩ := e
         try dsimp only at e
         try (apply stepWith e1; (focus (with_reducible apply (h.keeps_inFuncNew); done)); intro f0)
         try (apply stepWith e1; (focus (with_reducible apply (h.keeps_ownedNew); done)); intro f1)
         try (apply stepWith e1; (focus (with_reducible apply (ptrVal_of_NewInst); done)); intro f2)
         first
           | (apply stepWith e1; (focus (with_reducible apply (h.keeps_NewInst); done)); clear h; intro h) | (apply stepWith e1; (focus (with_reducible apply (h.keeps_NewStore); done)); clear h; intro h) | (apply stepWith e1; (focus (with_reducible apply (h.keeps_NewTerm); done)); clear h; intro h) | (apply stepWith e1; (focus (with_reducible apply (h.keeps_NewInstAt); done)); clear h; intro h) | (apply stepWith e1; (focus (with_reducible apply (h.keeps_NewStoreAt); done)); clear h; intro h) | (apply stepWith e1; (focus (with_reducible apply (h.keeps_NewTermAt); done)); clear h; intro h) | (apply stepWith e1; (focus (with_reducible apply (h.keeps_NewBlock); done)); clear h; intro h) | (apply stepWith e1; (focus (with_reducible apply (h.keeps_NewBlockIn); done)); clear h; intro h) | (apply stepWith e1; (focus (with_reducible apply (ih0.keeps h); done)); clear h; intro h)
           | (cases e1)
           | (refine Keeps.keeps_cutFrom h (b := g1) ?_ ?_ <;>
               first | (intro h2; clear h e1; rename' h2 => h) | (clear e; rename' e1 => e))
           | fail)
      | (split at e <;>
         try (rename_i heq
              try (apply stepWith heq; (focus (with_reducible apply (h.keeps_inFunc); done)); intro i2)
              try (apply stepWith heq; (focus (with_reducible apply (h.keeps_curFunc); done)); intro i3)
              try (first | (apply stepWith heq; (focus (with_reducible apply (h.keeps_NewInst); done)); clear h; intro h) | (apply stepWith heq; (focus (with_reducible apply (h.keeps_NewStore); done)); clear h; intro h) | (apply stepWith heq; (focus (with_reducible apply (h.keeps_NewTerm); done)); clear h; intro h) | (apply stepWith heq; (focus (with_reducible apply (h.keeps_NewInstAt); done)); clear h; intro h) | (apply stepWith heq; (focus (with_reducible apply (h.keeps_NewStoreAt); done)); clear h; intro h) | (apply stepWith heq; (focus (with_reducible apply (h.keeps_NewTermAt); done)); clear h; intro h) | (apply stepWith heq; (focus (with_reducible apply (h.keeps_NewBlock); done)); clear h; intro h) | (apply stepWith heq; (focus (with_reducible apply (h.keeps_NewBlockIn); done)); clear h; intro h) | (apply stepWith heq; (focus (with_reducible apply (ih0.keeps h); done)); clear h; intro h) | fail)))
      | (cases e; first | done | exact Keeps.keeps_less (Keeps.keeps_ext h) | fail)
      | (dsimp only at e)
      | fail)

theorem bindParameters_keeps (l : List String) :
    ∀ (i fn entryBlock : Nat) (a x g' : IRGenerator) (B : List Nat) (r : Unit) [Owned a entryBlock], Keeps a x B →
      bindParameters l i fn entryBlock x = .ok (r, g') → Keeps a g' B := by
  induction l with
  | nil =>
    intro i fn entryBlock a x g' B r _ h e
    cases e
    exact h
  | cons name rest ihl =>
    intro i fn entryBlock a x g' B r _ h e
    rw [bindParameters] at e
    try simp only [IRGenerator.NewAlloca, IRGenerator.NewLoad, IRGenerator.NewBin, IRGenerator.NewICmp, IRGenerator.NewFCmp, IRGenerator.NewGetElementPtr, IRGenerator.funcValue, NewCall_func, IRGenerator.NewCall, IRGenerator.NewZExt, IRGenerator.NewSelect, IRGenerator.NewBr, IRGenerator.NewCondBr, IRGenerator.NewRet, IRGenerator.NewUnreachable, IRGenerator.NewFunc, IRGenerator.NewGlobalDef] at e
    repeat' (first
      | (first | (revert e; with_reducible apply (Keeps.keeps_less ∘ (h.keeps_asResult)); done) | (revert e; with_reducible apply (Keeps.keeps_less ∘ (h.keeps_failWith)); done) | (revert e; with_reducible apply (Keeps.keeps_less ∘ (h.keeps_NewInst)); done) | (revert e; with_reducible apply (Keeps.keeps_less ∘ (h.keeps_NewStore)); done) | (revert e; with_reducible apply (Keeps.keeps_less ∘ (h.keeps_NewTerm)); done) | (revert e; with_reducible apply (Keeps.keeps_less ∘ (h.keeps_NewInstAt)); done) | (revert e; with_reducible apply (Keeps.keeps_less ∘ (h.keeps_NewStoreAt)); done) | (revert e; with_reducible apply (Keeps.keeps_less ∘ (h.keeps_NewTermAt)); done) | (revert e; with_reducible apply (Keeps.keeps_less ∘ (h.keeps_NewBlock)); done) | (revert e; with_reducible apply (Keeps.keeps_less ∘ (h.keeps_NewBlockIn)); done) | (revert e; with_reducible apply (Keeps.keeps_less ∘ (ihl _ _ _ _ _ _ _ _ h.keeps_ext)); done) | fail)
      | (apply stepWith e; (focus (with_reducible apply (@ite_ok _ _ _ _ _ _); done)); intro e2
         clear e
         rcases e2 with ⟨hc, e⟩ | ⟨hc, e⟩ <;>
         try (apply stepWith hc; (focus (with_reducible apply (h.keeps_inFuncNot); done)); intro i1))
      | (simp only [bind_assoc, pure_bind] at e)
      | (rw [bind_ok] at e
         obtain ⟨⟨x1, g1⟩, e1, e⟩ := e
         try dsimp only at e
         try (apply stepWith e1; (focus (with_reducible apply (h.keeps_inFuncNew); done)); intro f0)
         try (apply stepWith e1; (focus (with_reducible apply (h.keeps_ownedNew); done)); intro f1)
         try (apply stepWith e1; (focus (with_reducible apply (ptrVal_of_NewInst); done)); intro f2)
         first
           | (apply stepWith e1; (focus (with_reducible apply (h.keeps_NewInst); done)); clear h; intro h) | (apply stepWith e1; (focus (with_reducible apply (h.keeps_NewStore); done)); clear h; intro h) | (apply stepWith e1; (focus (with_reducible apply (h.keeps_NewTerm); done)); clear h; intro h) | (apply stepWith e1; (focus (with_reducible apply (h.keeps_NewInstAt); done)); clear h; intro h) | (apply stepWith e1; (focus (with_reducible apply (h.keeps_NewStoreAt); done)); clear h; intro h) | (apply stepWith e1; (focus (with_reducible apply (h.keeps_NewTermAt); done)); clear h; intro h) | (apply stepWith e1; (focus (with_reducible apply (h.keeps_NewBlock); done)); clear h; intro h) | (apply stepWith e1; (focus (with_reducible apply (h.keeps_NewBlockIn); done)); clear h; intro h) | (apply stepWith e1; (focus (with_reducible apply (ihl _ _ _ _ _ _ _ _ h.keeps_ext); done)); clear h; intro h)
           | (cases e1)
           | (refine Keeps.keeps_cutFrom h (b := g1) ?_ ?_ <;>
               first | (intro h2; clear h e1; rename' h2 => h) | (clear e; rename' e1 => e))
           | fail)
      | (split at e <;>
         try (rename_i heq
              try (apply stepWith heq; (focus (with_reducible apply (h.keeps_inFunc); done)); intro i2)
              try (apply stepWith heq; (focus (with_reducible apply (h.keeps_curFunc); done)); intro i3)
              try (first | (apply stepWith heq; (focus (with_reducible apply (h.keeps_NewInst); done)); clear h; intro h) | (apply stepWith heq; (focus (with_reducible apply (h.keeps_NewStore); done)); clear h; intro h) | (apply stepWith heq; (focus (with_reducible apply (h.keeps_NewTerm); done)); clear h; intro h) | (apply stepWith heq; (focus (with_reducible apply (h.keeps_NewInstAt); done)); clear h; intro h) | (apply stepWith heq; (focus (with_reducible apply (h.keeps_NewStoreAt); done)); clear h; intro h) | (apply stepWith heq; (focus (with_reducible apply (h.keeps_NewTermAt); done)); clear h; intro h) | (apply stepWith heq; (focus (with_reducible apply (h.keeps_NewBlock); done)); clear h; intro h) | (apply stepWith heq; (focus (with_reducible apply (h.keeps_NewBlockIn); done)); clear h; intro h) | (apply stepWith heq; (focus (with_reducible apply (ihl _ _ _ _ _ _ _ _ h.keeps_ext); done)); clear h; intro h) | fail)))
      | (cases e; first | done | exact Keeps.keeps_less (Keeps.keeps_ext h) | fail)
      | (dsimp only at e)
      | fail)

theorem Keeps.keeps_bindParameters {a g x g' : IRGenerator} {B : List Nat} [KExt a g x B] {l : List String} {i fn entryBlock : Nat}
    [Owned a entryBlock] {r : Unit} (h : Keeps a g B) (e : bindParameters l i fn entryBlock x = .ok (r, g')) : Keeps a g' B :=
  bindParameters_keeps l _ _ _ a x g' B r h.keeps_ext e

theorem bindLiteralParameters_keeps (l : List String) :
    ∀ (i fn entryBlock : Nat) (a x g' : IRGenerator) (B : List Nat) (r : Unit) [Owned a entryBlock], Keeps a x B →
      bindLiteralParameters l i fn entryBlock x = .ok (r, g') → Keeps a g' B := by
  induction l with
  | nil =>
    intro i fn entryBlock a x g' B r _ h e
    cases e
    exact h
  | cons name rest ihl =>
    intro i fn entryBlock a x g' B r _ h e
    rw [bindLiteralParameters] at e
    try simp only [IRGenerator.NewAlloca, IRGenerator.NewLoad, IRGenerator.NewBin, IRGenerator.NewICmp, IRGenerator.NewFCmp, IRGenerator.NewGetElementPtr, IRGenerator.funcValue, NewCall_func, IRGenerator.NewCall, IRGenerator.NewZExt, IRGenerator.NewSelect, IRGenerator.NewBr, IRGenerator.NewCondBr, IRGenerator.NewRet, IRGenerator.NewUnreachable, IRGenerator.NewFunc, IRGenerator.NewGlobalDef] at e
    repeat' (first
      | (first | (revert e; with_reducible apply (Keeps.keeps_less ∘ (h.keeps_asResult)); done) | (revert e; with_reducible apply (Keeps.keeps_less ∘ (h.keeps_failWith)); done) | (revert e; with_reducible apply (Keeps.keeps_less ∘ (h.keeps_NewInst)); done) | (revert e; with_reducible apply (Keeps.keeps_less ∘ (h.keeps_NewStore)); done) | (revert e; with_reducible apply (Keeps.keeps_less ∘ (h.keeps_NewTerm)); done) | (revert e; with_reducible apply (Keeps.keeps_less ∘ (h.keeps_NewInstAt)); done) | (revert e; with_reducible apply (Keeps.keeps_less ∘ (h.keeps_NewStoreAt)); done) | (revert e; with_reducible apply (Keeps.keeps_less ∘ (h.keeps_NewTermAt)); done) | (revert e; with_reducible apply (Keeps.keeps_less ∘ (h.keeps_NewBlock)); done) | (revert e; with_reducible apply (Keeps.keeps_less ∘ (h.keeps_NewBlockIn)); done) | (revert e; with_reducible apply (Keeps.keeps_less ∘ (ihl _ _ _ _ _ _ _ _ h.keeps_ext)); done) | fail)
      | (apply stepWith e; (focus (with_reducible apply (@ite_ok _ _ _ _ _ _); done)); intro e2
         clear e
         rcases e2 with ⟨hc, e⟩ | ⟨hc, e⟩ <;>
         try (apply stepWith hc; (focus (with_reducible apply (h.keeps_inFuncNot); done)); intro i1))
      | (simp only [bind_assoc, pure_bind] at e)
      | (rw [bind_ok] at e
         obtain ⟨⟨x1, g1⟩, e1, e⟩ := e
         try dsimp only at e
         try (apply stepWith e1; (focus (with_reducible apply (h.keeps_inFuncNew); done)); intro f0)
         try (apply stepWith e1; (focus (with_reducible apply (h.keeps_ownedNew); done)); intro f1)
         try (apply stepWith e1; (focus (with_reducible apply (ptrVal_of_NewInst); done)); intro f2)
         first
           | (apply stepWith e1; (focus (with_reducible apply (h.keeps_NewInst); done)); clear h; intro h) | (apply stepWith e1; (focus (with_reducible apply (h.keeps_NewStore); done)); clear h; intro h) | (apply stepWith e1; (focus (with_reducible apply (h.keeps_NewTerm); done)); clear h; intro h) | (apply stepWith e1; (focus (with_reducible apply (h.keeps_NewInstAt); done)); clear h; intro h) | (apply stepWith e1; (focus (with_reducible apply (h.keeps_NewStoreAt); done)); clear h; intro h) | (apply stepWith e1; (focus (with_reducible apply (h.keeps_NewTermAt); done)); clear h; intro h) | (apply stepWith e1; (focus (with_reducible apply (h.keeps_NewBlock); done)); clear h; intro h) | (apply stepWith e1; (focus (with_reducible apply (h.keeps_NewBlockIn); done)); clear h; intro h) | (apply stepWith e1; (focus (with_reducible apply (ihl _ _ _ _ _ _ _ _ h.keeps_ext); done)); clear h; intro h)
           | (cases e1)
           | (refine Keeps.keeps_cutFrom h (b := g1) ?_ ?_ <;>
               first | (intro h2; clear h e1; rename' h2 => h) | (clear e; rename' e1 => e))
           | fail)
      | (split at e <;>
         try (rename_i heq
              try (apply stepWith heq; (focus (with_reducible apply (h.keeps_inFunc); done)); intro i2)
              try (apply stepWith heq; (focus (with_reducible apply (h.keeps_curFunc); done)); intro i3)
              try (first | (apply stepWith heq; (focus (with_reducible apply (h.keeps_NewInst); done)); clear h; intro h) | (apply stepWith heq; (focus (with_reducible apply (h.keeps_NewStore); done)); clear h; intro h) | (apply stepWith heq; (focus (with_reducible apply (h.keeps_NewTerm); done)); clear h; intro h) | (apply stepWith heq; (focus (with_reducible apply (h.keeps_NewInstAt); done)); clear h; intro h) | (apply stepWith heq; (focus (with_reducible apply (h.keeps_NewStoreAt); done)); clear h; intro h) | (apply stepWith heq; (focus (with_reducible apply (h.keeps_NewTermAt); done)); clear h; intro h) | (apply stepWith heq; (focus (with_reducible apply (h.keeps_NewBlock); done)); clear h; intro h) | (apply stepWith heq; (focus (with_reducible apply (h.keeps_NewBlockIn); done)); clear h; intro h) | (apply stepWith heq; (focus (with_reducible apply (ihl _ _ _ _ _ _ _ _ h.keeps_ext); done)); clear h; intro h) | fail)))
      | (cases e; first | done | exact Keeps.keeps_less (Keeps.keeps_ext h) | fail)
      | (dsimp only at e)
      | fail)

theorem Keeps.keeps_bindLiteralParameters {a g x g' : IRGenerator} {B : List Nat} [KExt a g x B] {l : List String} {i fn entryBlock : Nat}
    [Owned a entryBlock] {r : Unit} (h : Keeps a g B) (e : bindLiteralParameters l i fn entryBlock x = .ok (r, g')) : Keeps a g' B :=
  bindLiteralParameters_keeps l _ _ _ a x g' B r h.keeps_ext e

theorem newCaseBlocks_keeps (l : List CaseClause) :
    ∀ (i : Nat) (labelSuffix : String) (defaultBlock : Option Nat) (a x g' : IRGenerator)
      (B : List Nat) (r : List Nat × Option Nat), Keeps a x B →
      newCaseBlocks l i labelSuffix defaultBlock x = .ok (r, g') → Keeps a g' B := by
  induction l with
  | nil =>
    intro i labelSuffix defaultBlock a x g' B r h e
    cases e
    exact h
  | cons c rest ihl =>
    intro i labelSuffix defaultBlock a x g' B r h e
    rw [newCaseBlocks] at e
    repeat' (first
      | (first | (revert e; with_reducible apply (Keeps.keeps_less ∘ (h.keeps_asResult)); done) | (revert e; with_reducible apply (Keeps.keeps_less ∘ (h.keeps_failWith)); done) | (revert e; with_reducible apply (Keeps.keeps_less ∘ (h.keeps_NewInst)); done) | (revert e; with_reducible apply (Keeps.keeps_less ∘ (h.keeps_NewStore)); done) | (revert e; with_reducible apply (Keeps.keeps_less ∘ (h.keeps_NewTerm)); done) | (revert e; with_reducible apply (Keeps.keeps_less ∘ (h.keeps_NewInstAt)); done) | (revert e; with_reducible apply (Keeps.keeps_less ∘ (h.keeps_NewStoreAt)); done) | (revert e; with_reducible apply (Keeps.keeps_less ∘ (h.keeps_NewTermAt)); done) | (revert e; with_reducible apply (Keeps.keeps_less ∘ (h.keeps_NewBlock)); done) | (revert e; with_reducible apply (Keeps.keeps_less ∘ (h.keeps_NewBlockIn)); done) | (revert e; with_reducible apply (Keeps.keeps_less ∘ (ihl _ _ _ _ _ _ _ _ h.keeps_ext)); done) | fail)
      | (apply stepWith e; (focus (with_reducible apply (@ite_ok _ _ _ _ _ _); done)); intro e2
         clear e
         rcases e2 with ⟨hc, e⟩ | ⟨hc, e⟩ <;>
         try (apply stepWith hc; (focus (with_reducible apply (h.keeps_inFuncNot); done)); intro i1))
      | (simp only [bind_assoc, pure_bind] at e)
      | (rw [bind_ok] at e
         obtain ⟨⟨x1, g1⟩, e1, e⟩ := e
         try dsimp only at e
         try (apply stepWith e1; (focus (with_reducible apply (h.keeps_inFuncNew); done)); intro f0)
         try (apply stepWith e1; (focus (with_reducible apply (h.keeps_ownedNew); done)); intro f1)
         try (apply stepWith e1; (focus (with_reducible apply (ptrVal_of_NewInst); done)); intro f2)
         first
           | (apply stepWith e1; (focus (with_reducible apply (h.keeps_NewInst); done)); clear h; intro h) | (apply stepWith e1; (focus (with_reducible apply (h.keeps_NewStore); done)); clear h; intro h) | (apply stepWith e1; (focus (with_reducible apply (h.keeps_NewTerm); done)); clear h; intro h) | (apply stepWith e1; (focus (with_reducible apply (h.keeps_NewInstAt); done)); clear h; intro h) | (apply stepWith e1; (focus (with_reducible apply (h.keeps_NewStoreAt); done)); clear h; intro h) | (apply stepWith e1; (focus (with_reducible apply (h.keeps_NewTermAt); done)); clear h; intro h) | (apply stepWith e1; (focus (with_reducible apply (h.keeps_NewBlock); done)); clear h; intro h) | (apply stepWith e1; (focus (with_reducible apply (h.keeps_NewBlockIn); done)); clear h; intro h) | (apply stepWith e1; (focus (with_reducible apply (ihl _ _ _ _ _ _ _ _ h.keeps_ext); done)); clear h; intro h)
           | (cases e1)
           | (refine Keeps.keeps_cutFrom h (b := g1) ?_ ?_ <;>
               first | (intro h2; clear h e1; rename' h2 => h) | (clear e; rename' e1 => e))
           | fail)
      | (split at e <;>
         try (rename_i heq
              try (apply stepWith heq; (focus (with_reducible apply (h.keeps_inFunc); done)); intro i2)
              try (apply stepWith heq; (focus (with_reducible apply (h.keeps_curFunc); done)); intro i3)
              try (first | (apply stepWith heq; (focus (with_reducible apply (h.keeps_NewInst); done)); clear h; intro h) | (apply stepWith heq; (focus (with_reducible apply (h.keeps_NewStore); done)); clear h; intro h) | (apply stepWith heq; (focus (with_reducible apply (h.keeps_NewTerm); done)); clear h; intro h) | (apply stepWith heq; (focus (with_reducible apply (h.keeps_NewInstAt); done)); clear h; intro h) | (apply stepWith heq; (focus (with_reducible apply (h.keeps_NewStoreAt); done)); clear h; intro h) | (apply stepWith heq; (focus (with_reducible apply (h.keeps_NewTermAt); done)); clear h; intro h) | (apply stepWith heq; (focus (with_reducible apply (h.keeps_NewBlock); done)); clear h; intro h) | (apply stepWith heq; (focus (with_reducible apply (h.keeps_NewBlockIn); done)); clear h; intro h) | (apply stepWith heq; (focus (with_reducible apply (ihl _ _ _ _ _ _ _ _ h.keeps_ext); done)); clear h; intro h) | fail)))
      | (cases e; first | done | exact Keeps.keeps_less (Keeps.keeps_ext h) | fail)
      | (dsimp only at e)
      | fail)

theorem Keeps.keeps_newCaseBlocks {a g x g' : IRGenerator} {B : List Nat} [KExt a g x B]
    {l : List CaseClause} {i : Nat}
    {labelSuffix : String} {defaultBlock : Option Nat} {r : List Nat × Option Nat}
    (h : Keeps a g B) (e : newCaseBlocks l i labelSuffix defaultBlock x = .ok (r, g')) :
    Keeps a g' (r.1 ++ B) :=
  (newCaseBlocks_keeps l _ _ _ a x g' B r h.keeps_ext e).keeps_more
    (fun b hb => ((newCaseBlocks_result _ _ _ _ _ _ _ e).2.1 b hb).2)

theorem getExpressionType_keeps : ∀ (n : Nat) (ex : Expression), sizeOf ex ≤ n →
    ∀ (a x g' : IRGenerator) (B : List Nat) (r : Option Ty), Keeps a x B →
      getExpressionType ex x = (r, g') → Keeps a g' B := by
  intro n
  induction n with
  | zero =>
    intro ex hn
    cases ex <;> simp at hn
  | succ n ih =>
    intro ex hn a x g' B r h e
    cases ex with
    | PrefixExpression op right =>
      simp only [getExpressionType] at e
      simp at hn
      exact ih right (by omega) a x g' B r h e
    | InfixExpression left op right =>
      simp only [getExpressionType] at e
      simp at hn
      have s1 : sizeOf left ≤ n := by omega
      have s2 : sizeOf right ≤ n := by omega
      have i1 : ∀ (g y : IRGenerator) [KExt a g y B], KExt a g (getExpressionType left y).2 B :=
        fun g y i => ⟨fun hh => ih left s1 _ _ _ _ _ (i.keeps hh) rfl⟩
      have i2 : ∀ (g y : IRGenerator) [KExt a g y B], KExt a g (getExpressionType right y).2 B :=
        fun g y i => ⟨fun hh => ih right s2 _ _ _ _ _ (i.keeps hh) rfl⟩
      repeat' (first
        | (first | (revert e; with_reducible apply (Keeps.keeps_less ∘ (h.keeps_asResult)); done) | (revert e; with_reducible apply (Keeps.keeps_less ∘ (h.keeps_failWith)); done) | (revert e; with_reducible apply (Keeps.keeps_less ∘ (h.keeps_NewInst)); done) | (revert e; with_reducible apply (Keeps.keeps_less ∘ (h.keeps_NewStore)); done) | (revert e; with_reducible apply (Keeps.keeps_less ∘ (h.keeps_NewTerm)); done) | (revert e; with_reducible apply (Keeps.keeps_less ∘ (h.keeps_NewInstAt)); done) | (revert e; with_reducible apply (Keeps.keeps_less ∘ (h.keeps_NewStoreAt)); done) | (revert e; with_reducible apply (Keeps.keeps_less ∘ (h.keeps_NewTermAt)); done) | (revert e; with_reducible apply (Keeps.keeps_less ∘ (h.keeps_NewBlock)); done) | (revert e; with_reducible apply (Keeps.keeps_less ∘ (h.keeps_NewBlockIn)); done) | fail)
        | (apply stepWith e; (focus (with_reducible apply (@ite_ok _ _ _ _ _ _); done)); intro e2
           clear e
           rcases e2 with ⟨hc, e⟩ | ⟨hc, e⟩ <;>
           try (apply stepWith hc; (focus (with_reducible apply (h.keeps_inFuncNot); done)); intro i1))
        | (simp only [bind_assoc, pure_bind] at e)
        | (rw [bind_ok] at e
           obtain ⟨⟨x1, g1⟩, e1, e⟩ := e
           try dsimp only at e
           try (apply stepWith e1; (focus (with_reducible apply (h.keeps_inFuncNew); done)); intro f0)
           try (apply stepWith e1; (focus (with_reducible apply (h.keeps_ownedNew); done)); intro f1)
           try (apply stepWith e1; (focus (with_reducible apply (ptrVal_of_NewInst); done)); intro f2)
           first
             | (apply stepWith e1; (focus (with_reducible apply (h.keeps_NewInst); done)); clear h; intro h) | (apply stepWith e1; (focus (with_reducible apply (h.keeps_NewStore); done)); clear h; intro h) | (apply stepWith e1; (focus (with_reducible apply (h.keeps_NewTerm); done)); clear h; intro h) | (apply stepWith e1; (focus (with_reducible apply (h.keeps_NewInstAt); done)); clear h; intro h) | (apply stepWith e1; (focus (with_reducible apply (h.keeps_NewStoreAt); done)); clear h; intro h) | (apply stepWith e1; (focus (with_reducible apply (h.keeps_NewTermAt); done)); clear h; intro h) | (apply stepWith e1; (focus (with_reducible apply (h.keeps_NewBlock); done)); clear h; intro h) | (apply stepWith e1; (focus (with_reducible apply (h.keeps_NewBlockIn); done)); clear h; intro h)
             | (cases e1)
             | (refine Keeps.keeps_cutFrom h (b := g1) ?_ ?_ <;>
                 first | (intro h2; clear h e1; rename' h2 => h) | (clear e; rename' e1 => e))
             | fail)
        | (split at e <;>
           try (rename_i heq
                try (apply stepWith heq; (focus (with_reducible apply (h.keeps_inFunc); done)); intro i2)
                try (apply stepWith heq; (focus (with_reducible apply (h.keeps_curFunc); done)); intro i3)
                try (first | (apply stepWith heq; (focus (with_reducible apply (h.keeps_NewInst); done)); clear h; intro h) | (apply stepWith heq; (focus (with_reducible apply (h.keeps_NewStore); done)); clear h; intro h) | (apply stepWith heq; (focus (with_reducible apply (h.keeps_NewTerm); done)); clear h; intro h) | (apply stepWith heq; (focus (with_reducible apply (h.keeps_NewInstAt); done)); clear h; intro h) | (apply stepWith heq; (focus (with_reducible apply (h.keeps_NewStoreAt); done)); clear h; intro h) | (apply stepWith heq; (focus (with_reducible apply (h.keeps_NewTermAt); done)); clear h; intro h) | (apply stepWith heq; (focus (with_reducible apply (h.keeps_NewBlock); done)); clear h; intro h) | (apply stepWith heq; (focus (with_reducible apply (h.keeps_NewBlockIn); done)); clear h; intro h) | fail)))
        | (cases e; first | done | exact Keeps.keeps_less (Keeps.keeps_ext h) | fail)
        | (dsimp only at e)
        | fail)
    | ArrayLiteral elements =>
      rcases elements with _ | ⟨first, rest⟩
      · simp only [getExpressionType] at e
        cases e
        exact h
      · simp only [getExpressionType] at e
        simp at hn
        have s1 : sizeOf first ≤ n := by omega
        have i1 : ∀ (g y : IRGenerator) [KExt a g y B], KExt a g (getExpressionType first y).2 B :=
        fun g y i => ⟨fun hh => ih first s1 _ _ _ _ _ (i.keeps hh) rfl⟩
        repeat' (first
          | (first | (revert e; with_reducible apply (Keeps.keeps_less ∘ (h.keeps_asResult)); done) | (revert e; with_reducible apply (Keeps.keeps_less ∘ (h.keeps_failWith)); done) | (revert e; with_reducible apply (Keeps.keeps_less ∘ (h.keeps_NewInst)); done) | (revert e; with_reducible apply (Keeps.keeps_less ∘ (h.keeps_NewStore)); done) | (revert e; with_reducible apply (Keeps.keeps_less ∘ (h.keeps_NewTerm)); done) | (revert e; with_reducible apply (Keeps.keeps_less ∘ (h.keeps_NewInstAt)); done) | (revert e; with_reducible apply (Keeps.keeps_less ∘ (h.keeps_NewStoreAt)); done) | (revert e; with_reducible apply (Keeps.keeps_less ∘ (h.keeps_NewTermAt)); done) | (revert e; with_reducible apply (Keeps.keeps_less ∘ (h.keeps_NewBlock)); done) | (revert e; with_reducible apply (Keeps.keeps_less ∘ (h.keeps_NewBlockIn)); done) | fail)
          | (apply stepWith e; (focus (with_reducible apply (@ite_ok _ _ _ _ _ _); done)); intro e2
             clear e
             rcases e2 with ⟨hc, e⟩ | ⟨hc, e⟩ <;>
             try (apply stepWith hc; (focus (with_reducible apply (h.keeps_inFuncNot); done)); intro i1))
          | (simp only [bind_assoc, pure_bind] at e)
          | (rw [bind_ok] at e
             obtain ⟨⟨x1, g1⟩, e1, e⟩ := e
             try dsimp only at e
             try (apply stepWith e1; (focus (with_reducible apply (h.keeps_inFuncNew); done)); intro f0)
             try (apply stepWith e1; (focus (with_reducible apply (h.keeps_ownedNew); done)); intro f1)
             try (apply stepWith e1; (focus (with_reducible apply (ptrVal_of_NewInst); done)); intro f2)
             first
               | (apply stepWith e1; (focus (with_reducible apply (h.keeps_NewInst); done)); clear h; intro h) | (apply stepWith e1; (focus (with_reducible apply (h.keeps_NewStore); done)); clear h; intro h) | (apply stepWith e1; (focus (with_reducible apply (h.keeps_NewTerm); done)); clear h; intro h) | (apply stepWith e1; (focus (with_reducible apply (h.keeps_NewInstAt); done)); clear h; intro h) | (apply stepWith e1; (focus (with_reducible apply (h.keeps_NewStoreAt); done)); clear h; intro h) | (apply stepWith e1; (focus (with_reducible apply (h.keeps_NewTermAt); done)); clear h; intro h) | (apply stepWith e1; (focus (with_reducible apply (h.keeps_NewBlock); done)); clear h; intro h) | (apply stepWith e1; (focus (with_reducible apply (h.keeps_NewBlockIn); done)); clear h; intro h)
               | (cases e1)
               | (refine Keeps.keeps_cutFrom h (b := g1) ?_ ?_ <;>
                   first | (intro h2; clear h e1; rename' h2 => h) | (clear e; rename' e1 => e))
               | fail)
          | (split at e <;>
             try (rename_i heq
                  try (apply stepWith heq; (focus (with_reducible apply (h.keeps_inFunc); done)); intro i2)
                  try (apply stepWith heq; (focus (with_reducible apply (h.keeps_curFunc); done)); intro i3)
                  try (first | (apply stepWith heq; (focus (with_reducible apply (h.keeps_NewInst); done)); clear h; intro h) | (apply stepWith heq; (focus (with_reducible apply (h.keeps_NewStore); done)); clear h; intro h) | (apply stepWith heq; (focus (with_reducible apply (h.keeps_NewTerm); done)); clear h; intro h) | (apply stepWith heq; (focus (with_reducible apply (h.keeps_NewInstAt); done)); clear h; intro h) | (apply stepWith heq; (focus (with_reducible apply (h.keeps_NewStoreAt); done)); clear h; intro h) | (apply stepWith heq; (focus (with_reducible apply (h.keeps_NewTermAt); done)); clear h; intro h) | (apply stepWith heq; (focus (with_reducible apply (h.keeps_NewBlock); done)); clear h; intro h) | (apply stepWith heq; (focus (with_reducible apply (h.keeps_NewBlockIn); done)); clear h; intro h) | fail)))
          | (cases e; first | done | exact Keeps.keeps_less (Keeps.keeps_ext h) | fail)
          | (dsimp only at e)
          | fail)
    | IndexExpression left index =>
      simp only [getExpressionType] at e
      simp at hn
      have s1 : sizeOf left ≤ n := by omega
      have i1 : ∀ (g y : IRGenerator) [KExt a g y B], KExt a g (getExpressionType left y).2 B :=
        fun g y i => ⟨fun hh => ih left s1 _ _ _ _ _ (i.keeps hh) rfl⟩
      repeat' (first
        | (first | (revert e; with_reducible apply (Keeps.keeps_less ∘ (h.keeps_asResult)); done) | (revert e; with_reducible apply (Keeps.keeps_less ∘ (h.keeps_failWith)); done) | (revert e; with_reducible apply (Keeps.keeps_less ∘ (h.keeps_NewInst)); done) | (revert e; with_reducible apply (Keeps.keeps_less ∘ (h.keeps_NewStore)); done) | (revert e; with_reducible apply (Keeps.keeps_less ∘ (h.keeps_NewTerm)); done) | (revert e; with_reducible apply (Keeps.keeps_less ∘ (h.keeps_NewInstAt)); done) | (revert e; with_reducible apply (Keeps.keeps_less ∘ (h.keeps_NewStoreAt)); done) | (revert e; with_reducible apply (Keeps.keeps_less ∘ (h.keeps_NewTermAt)); done) | (revert e; with_reducible apply (Keeps.keeps_less ∘ (h.keeps_NewBlock)); done) | (revert e; with_reducible apply (Keeps.keeps_less ∘ (h.keeps_NewBlockIn)); done) | fail)
        | (apply stepWith e; (focus (with_reducible apply (@ite_ok _ _ _ _ _ _); done)); intro e2
           clear e
           rcases e2 with ⟨hc, e⟩ | ⟨hc, e⟩ <;>
           try (apply stepWith hc; (focus (with_reducible apply (h.keeps_inFuncNot); done)); intro i1))
        | (simp only [bind_assoc, pure_bind] at e)
        | (rw [bind_ok] at e
           obtain ⟨⟨x1, g1⟩, e1, e⟩ := e
           try dsimp only at e
           try (apply stepWith e1; (focus (with_reducible apply (h.keeps_inFuncNew); done)); intro f0)
           try (apply stepWith e1; (focus (with_reducible apply (h.keeps_ownedNew); done)); intro f1)
           try (apply stepWith e1; (focus (with_reducible apply (ptrVal_of_NewInst); done)); intro f2)
           first
             | (apply stepWith e1; (focus (with_reducible apply (h.keeps_NewInst); done)); clear h; intro h) | (apply stepWith e1; (focus (with_reducible apply (h.keeps_NewStore); done)); clear h; intro h) | (apply stepWith e1; (focus (with_reducible apply (h.keeps_NewTerm); done)); clear h; intro h) | (apply stepWith e1; (focus (with_reducible apply (h.keeps_NewInstAt); done)); clear h; intro h) | (apply stepWith e1; (focus (with_reducible apply (h.keeps_NewStoreAt); done)); clear h; intro h) | (apply stepWith e1; (focus (with_reducible apply (h.keeps_NewTermAt); done)); clear h; intro h) | (apply stepWith e1; (focus (with_reducible apply (h.keeps_NewBlock); done)); clear h; intro h) | (apply stepWith e1; (focus (with_reducible apply (h.keeps_NewBlockIn); done)); clear h; intro h)
             | (cases e1)
             | (refine Keeps.keeps_cutFrom h (b := g1) ?_ ?_ <;>
                 first | (intro h2; clear h e1; rename' h2 => h) | (clear e; rename' e1 => e))
             | fail)
        | (split at e <;>
           try (rename_i heq
                try (apply stepWith heq; (focus (with_reducible apply (h.keeps_inFunc); done)); intro i2)
                try (apply stepWith heq; (focus (with_reducible apply (h.keeps_curFunc); done)); intro i3)
                try (first | (apply stepWith heq; (focus (with_reducible apply (ih _ s1 _ _ _ _ _ h.keeps_ext); done)); clear h; intro h) | (apply stepWith heq; (focus (with_reducible apply (h.keeps_NewInst); done)); clear h; intro h) | (apply stepWith heq; (focus (with_reducible apply (h.keeps_NewStore); done)); clear h; intro h) | (apply stepWith heq; (focus (with_reducible apply (h.keeps_NewTerm); done)); clear h; intro h) | (apply stepWith heq; (focus (with_reducible apply (h.keeps_NewInstAt); done)); clear h; intro h) | (apply stepWith heq; (focus (with_reducible apply (h.keeps_NewStoreAt); done)); clear h; intro h) | (apply stepWith heq; (focus (with_reducible apply (h.keeps_NewTermAt); done)); clear h; intro h) | (apply stepWith heq; (focus (with_reducible apply (h.keeps_NewBlock); done)); clear h; intro h) | (apply stepWith heq; (focus (with_reducible apply (h.keeps_NewBlockIn); done)); clear h; intro h) | fail)))
        | (cases e; first | done | exact Keeps.keeps_less (Keeps.keeps_ext h) | fail)
        | (dsimp only at e)
        | fail)
    | _ =>
      simp only [getExpressionType] at e
      repeat' (first
        | (first | (revert e; with_reducible apply (Keeps.keeps_less ∘ (h.keeps_asResult)); done) | (revert e; with_reducible apply (Keeps.keeps_less ∘ (h.keeps_failWith)); done) | (revert e; with_reducible apply (Keeps.keeps_less ∘ (h.keeps_NewInst)); done) | (revert e; with_reducible apply (Keeps.keeps_less ∘ (h.keeps_NewStore)); done) | (revert e; with_reducible apply (Keeps.keeps_less ∘ (h.keeps_NewTerm)); done) | (revert e; with_reducible apply (Keeps.keeps_less ∘ (h.keeps_NewInstAt)); done) | (revert e; with_reducible apply (Keeps.keeps_less ∘ (h.keeps_NewStoreAt)); done) | (revert e; with_reducible apply (Keeps.keeps_less ∘ (h.keeps_NewTermAt)); done) | (revert e; with_reducible apply (Keeps.keeps_less ∘ (h.keeps_NewBlock)); done) | (revert e; with_reducible apply (Keeps.keeps_less ∘ (h.keeps_NewBlockIn)); done) | fail)
        | (apply stepWith e; (focus (with_reducible apply (@ite_ok _ _ _ _ _ _); done)); intro e2
           clear e
           rcases e2 with ⟨hc, e⟩ | ⟨hc, e⟩ <;>
           try (apply stepWith hc; (focus (with_reducible apply (h.keeps_inFuncNot); done)); intro i1))
        | (simp only [bind_assoc, pure_bind] at e)
        | (rw [bind_ok] at e
           obtain ⟨⟨x1, g1⟩, e1, e⟩ := e
           try dsimp only at e
           try (apply stepWith e1; (focus (with_reducible apply (h.keeps_inFuncNew); done)); intro f0)
           try (apply stepWith e1; (focus (with_reducible apply (h.keeps_ownedNew); done)); intro f1)
           try (apply stepWith e1; (focus (with_reducible apply (ptrVal_of_NewInst); done)); intro f2)
           first
             | (apply stepWith e1; (focus (with_reducible apply (h.keeps_NewInst); done)); clear h; intro h) | (apply stepWith e1; (focus (with_reducible apply (h.keeps_NewStore); done)); clear h; intro h) | (apply stepWith e1; (focus (with_reducible apply (h.keeps_NewTerm); done)); clear h; intro h) | (apply stepWith e1; (focus (with_reducible apply (h.keeps_NewInstAt); done)); clear h; intro h) | (apply stepWith e1; (focus (with_reducible apply (h.keeps_NewStoreAt); done)); clear h; intro h) | (apply stepWith e1; (focus (with_reducible apply (h.keeps_NewTermAt); done)); clear h; intro h) | (apply stepWith e1; (focus (with_reducible apply (h.keeps_NewBlock); done)); clear h; intro h) | (apply stepWith e1; (focus (with_reducible apply (h.keeps_NewBlockIn); done)); clear h; intro h)
             | (cases e1)
             | (refine Keeps.keeps_cutFrom h (b := g1) ?_ ?_ <;>
                 first | (intro h2; clear h e1; rename' h2 => h) | (clear e; rename' e1 => e))
             | fail)
        | (split at e <;>
           try (rename_i heq
                try (apply stepWith heq; (focus (with_reducible apply (h.keeps_inFunc); done)); intro i2)
                try (apply stepWith heq; (focus (with_reducible apply (h.keeps_curFunc); done)); intro i3)
                try (first | (apply stepWith heq; (focus (with_reducible apply (h.keeps_NewInst); done)); clear h; intro h) | (apply stepWith heq; (focus (with_reducible apply (h.keeps_NewStore); done)); clear h; intro h) | (apply stepWith heq; (focus (with_reducible apply (h.keeps_NewTerm); done)); clear h; intro h) | (apply stepWith heq; (focus (with_reducible apply (h.keeps_NewInstAt); done)); clear h; intro h) | (apply stepWith heq; (focus (with_reducible apply (h.keeps_NewStoreAt); done)); clear h; intro h) | (apply stepWith heq; (focus (with_reducible apply (h.keeps_NewTermAt); done)); clear h; intro h) | (apply stepWith heq; (focus (with_reducible apply (h.keeps_NewBlock); done)); clear h; intro h) | (apply stepWith heq; (focus (with_reducible apply (h.keeps_NewBlockIn); done)); clear h; intro h) | fail)))
        | (cases e; first | done | exact Keeps.keeps_less (Keeps.keeps_ext h) | fail)
        | (dsimp only at e)
        | fail)

theorem Keeps.keeps_getExpressionType {a g x g' : IRGenerator} {B : List Nat} [KExt a g x B]
    {ex : Expression} {r : Option Ty} (h : Keeps a g B)
    (e : getExpressionType ex x = (r, g')) : Keeps a g' B :=
  getExpressionType_keeps _ ex (Nat.le_refl _) a x g' B r h.keeps_ext e

instance KExt.kextGetExpressionType (a g x : IRGenerator) (B : List Nat) (ex : Expression)
    [i : KExt a g x B] : KExt a g (getExpressionType ex x).2 B :=
  ⟨fun h => h.keeps_getExpressionType rfl⟩

theorem Keeps.keeps_varStatementType {a g x g' : IRGenerator} {B : List Nat} [KExt a g x B] {varName : String} {type value : Option Expression} {r : Option Ty}
    (h : Keeps a g B) (e : varStatementType varName type value x = (r, g')) : Keeps a g' B := by
  replace h : Keeps a x B := h.keeps_ext
  unfold Irgen.varStatementType at e
  try simp only [IRGenerator.NewAlloca, IRGenerator.NewLoad, IRGenerator.NewBin, IRGenerator.NewICmp, IRGenerator.NewFCmp, IRGenerator.NewGetElementPtr, IRGenerator.funcValue, NewCall_func, IRGenerator.NewCall, IRGenerator.NewZExt, IRGenerator.NewSelect, IRGenerator.NewBr, IRGenerator.NewCondBr, IRGenerator.NewRet, IRGenerator.NewUnreachable, IRGenerator.NewFunc, IRGenerator.NewGlobalDef] at e
  repeat' (first
    | (first | (revert e; with_reducible apply (Keeps.keeps_less ∘ (h.keeps_asResult)); done) | (revert e; with_reducible apply (Keeps.keeps_less ∘ (h.keeps_failWith)); done) | (revert e; with_reducible apply (Keeps.keeps_less ∘ (h.keeps_NewInst)); done) | (revert e; with_reducible apply (Keeps.keeps_less ∘ (h.keeps_NewStore)); done) | (revert e; with_reducible apply (Keeps.keeps_less ∘ (h.keeps_NewTerm)); done) | (revert e; with_reducible apply (Keeps.keeps_less ∘ (h.keeps_NewInstAt)); done) | (revert e; with_reducible apply (Keeps.keeps_less ∘ (h.keeps_NewStoreAt)); done) | (revert e; with_reducible apply (Keeps.keeps_less ∘ (h.keeps_NewTermAt)); done) | (revert e; with_reducible apply (Keeps.keeps_less ∘ (h.keeps_NewBlock)); done) | (revert e; with_reducible apply (Keeps.keeps_less ∘ (h.keeps_NewBlockIn)); done) | fail)
    | (apply stepWith e; (focus (with_reducible apply (@ite_ok _ _ _ _ _ _); done)); intro e2
       clear e
       rcases e2 with ⟨hc, e⟩ | ⟨hc, e⟩ <;>
       try (apply stepWith hc; (focus (with_reducible apply (h.keeps_inFuncNot); done)); intro i1))
    | (simp only [bind_assoc, pure_bind] at e)
    | (rw [bind_ok] at e
       obtain ⟨⟨x1, g1⟩, e1, e⟩ := e
       try dsimp only at e
       try (apply stepWith e1; (focus (with_reducible apply (h.keeps_inFuncNew); done)); intro f0)
       try (apply stepWith e1; (focus (with_reducible apply (h.keeps_ownedNew); done)); intro f1)
       try (apply stepWith e1; (focus (with_reducible apply (ptrVal_of_NewInst); done)); intro f2)
       first
         | (apply stepWith e1; (focus (with_reducible apply (h.keeps_NewInst); done)); clear h; intro h) | (apply stepWith e1; (focus (with_reducible apply (h.keeps_NewStore); done)); clear h; intro h) | (apply stepWith e1; (focus (with_reducible apply (h.keeps_NewTerm); done)); clear h; intro h) | (apply stepWith e1; (focus (with_reducible apply (h.keeps_NewInstAt); done)); clear h; intro h) | (apply stepWith e1; (focus (with_reducible apply (h.keeps_NewStoreAt); done)); clear h; intro h) | (apply stepWith e1; (focus (with_reducible apply (h.keeps_NewTermAt); done)); clear h; intro h) | (apply stepWith e1; (focus (with_reducible apply (h.keeps_NewBlock); done)); clear h; intro h) | (apply stepWith e1; (focus (with_reducible apply (h.keeps_NewBlockIn); done)); clear h; intro h)
         | (cases e1)
         | (refine Keeps.keeps_cutFrom h (b := g1) ?_ ?_ <;>
             first | (intro h2; clear h e1; rename' h2 => h) | (clear e; rename' e1 => e))
         | fail)
    | (split at e <;>
       try (rename_i heq
            try (apply stepWith heq; (focus (with_reducible apply (h.keeps_inFunc); done)); intro i2)
            try (apply stepWith heq; (focus (with_reducible apply (h.keeps_curFunc); done)); intro i3)
            try (first | (apply stepWith heq; (focus (with_reducible apply (h.keeps_getExpressionType); done)); clear h; intro h) | (apply stepWith heq; (focus (with_reducible apply (h.keeps_NewInst); done)); clear h; intro h) | (apply stepWith heq; (focus (with_reducible apply (h.keeps_NewStore); done)); clear h; intro h) | (apply stepWith heq; (focus (with_reducible apply (h.keeps_NewTerm); done)); clear h; intro h) | (apply stepWith heq; (focus (with_reducible apply (h.keeps_NewInstAt); done)); clear h; intro h) | (apply stepWith heq; (focus (with_reducible apply (h.keeps_NewStoreAt); done)); clear h; intro h) | (apply stepWith heq; (focus (with_reducible apply (h.keeps_NewTermAt); done)); clear h; intro h) | (apply stepWith heq; (focus (with_reducible apply (h.keeps_NewBlock); done)); clear h; intro h) | (apply stepWith heq; (focus (with_reducible apply (h.keeps_NewBlockIn); done)); clear h; intro h) | fail)))
    | (cases e; first | done | exact Keeps.keeps_less (Keeps.keeps_ext h) | fail)
    | (dsimp only at e)
    | fail)

instance KExt.kextVarStatementType (a g x : IRGenerator) (B : List Nat) (varName : String) (type value : Option Expression) [i : KExt a g x B] :
    KExt a g (varStatementType varName type value x).2 B :=
  ⟨fun h => h.keeps_varStatementType rfl⟩

theorem taggedSwitchCases_keeps (l : List CaseClause) (ih : ∀ c ∈ l, ∀ e ∈ c.values, ExprKept e) :
    ∀ (i : Nat) (switchValue : Value) (caseBlocks : List Nat) (currentBlock : Option Nat) (a x g' : IRGenerator) (B : List Nat) (r : Option Nat) [OwnedOpt a currentBlock], Keeps a x B →
      taggedSwitchCases l i switchValue caseBlocks currentBlock x = .ok (r, g') → Keeps a g' B := by
  induction l with
  | nil =>
    intro i switchValue caseBlocks currentBlock a x g' B r _ h e
    rw [taggedSwitchCases_nil_eq] at e
    cases e
    exact h
  | cons c rest ihl =>
    intro i switchValue caseBlocks currentBlock a x g' B r _ h e
    have ihr := ihl (fun e he => ih e (List.mem_cons_of_mem _ he))
    rcases c with ⟨d, vs, b⟩
    have ih1 : ∀ e ∈ vs, ExprKept e := ih _ (List.mem_cons_self _ _)
    rw [taggedSwitchCases_cons_eq] at e
    try simp only [IRGenerator.NewAlloca, IRGenerator.NewLoad, IRGenerator.NewBin, IRGenerator.NewICmp, IRGenerator.NewFCmp, IRGenerator.NewGetElementPtr, IRGenerator.funcValue, NewCall_func, IRGenerator.NewCall, IRGenerator.NewZExt, IRGenerator.NewSelect, IRGenerator.NewBr, IRGenerator.NewCondBr, IRGenerator.NewRet, IRGenerator.NewUnreachable, IRGenerator.NewFunc, IRGenerator.NewGlobalDef] at e
    repeat' (first
      | (first | (revert e; with_reducible apply (Keeps.keeps_less ∘ (h.keeps_asResult)); done) | (revert e; with_reducible apply (Keeps.keeps_less ∘ (h.keeps_failWith)); done) | (revert e; with_reducible apply (Keeps.keeps_less ∘ (h.keeps_NewInst)); done) | (revert e; with_reducible apply (Keeps.keeps_less ∘ (h.keeps_NewStore)); done) | (revert e; with_reducible apply (Keeps.keeps_less ∘ (h.keeps_NewTerm)); done) | (revert e; with_reducible apply (Keeps.keeps_less ∘ (h.keeps_NewInstAt)); done) | (revert e; with_reducible apply (Keeps.keeps_less ∘ (h.keeps_NewStoreAt)); done) | (revert e; with_reducible apply (Keeps.keeps_less ∘ (h.keeps_NewTermAt)); done) | (revert e; with_reducible apply (Keeps.keeps_less ∘ (h.keeps_NewBlock)); done) | (revert e; with_reducible apply (Keeps.keeps_less ∘ (h.keeps_NewBlockIn)); done) | (revert e; with_reducible apply (Keeps.keeps_less ∘ (ihr _ _ _ _ _ _ _ _ _ h.keeps_ext)); done) | (revert e; with_reducible apply (Keeps.keeps_less ∘ (Keeps.keeps_taggedSwitchValues ih1 h)); done) | fail)
      | (apply stepWith e; (focus (with_reducible apply (@ite_ok _ _ _ _ _ _); done)); intro e2
         clear e
         rcases e2 with ⟨hc, e⟩ | ⟨hc, e⟩ <;>
         try (apply stepWith hc; (focus (with_reducible apply (h.keeps_inFuncNot); done)); intro i1))
      | (simp only [bind_assoc, pure_bind] at e)
      | (rw [bind_ok] at e
         obtain ⟨⟨x1, g1⟩, e1, e⟩ := e
         try dsimp only at e
         try (apply stepWith e1; (focus (with_reducible apply (h.keeps_inFuncNew); done)); intro f0)
         try (apply stepWith e1; (focus (with_reducible apply (h.keeps_ownedNew); done)); intro f1)
         try (apply stepWith e1; (focus (with_reducible apply (ptrVal_of_NewInst); done)); intro f2)
         try (apply stepWith e1; (focus (with_reducible apply (h.keeps_ownedResult ∘ (taggedSwitchValues_result _ _ _ _ _ _ _ _)); done)); intro f3)
         first
           | (apply stepWith e1; (focus (with_reducible apply (h.keeps_NewInst); done)); clear h; intro h) | (apply stepWith e1; (focus (with_reducible apply (h.keeps_NewStore); done)); clear h; intro h) | (apply stepWith e1; (focus (with_reducible apply (h.keeps_NewTerm); done)); clear h; intro h) | (apply stepWith e1; (focus (with_reducible apply (h.keeps_NewInstAt); done)); clear h; intro h) | (apply stepWith e1; (focus (with_reducible apply (h.keeps_NewStoreAt); done)); clear h; intro h) | (apply stepWith e1; (focus (with_reducible apply (h.keeps_NewTermAt); done)); clear h; intro h) | (apply stepWith e1; (focus (with_reducible apply (h.keeps_NewBlock); done)); clear h; intro h) | (apply stepWith e1; (focus (with_reducible apply (h.keeps_NewBlockIn); done)); clear h; intro h) | (apply stepWith e1; (focus (with_reducible apply (ihr _ _ _ _ _ _ _ _ _ h.keeps_ext); done)); clear h; intro h) | (apply stepWith e1; (focus (with_reducible apply (Keeps.keeps_taggedSwitchValues ih1 h); done)); clear h; intro h)
           | (cases e1)
           | (refine Keeps.keeps_cutFrom h (b := g1) ?_ ?_ <;>
               first | (intro h2; clear h e1; rename' h2 => h) | (clear e; rename' e1 => e))
           | fail)
      | (split at e <;>
         try (rename_i heq
              try (apply stepWith heq; (focus (with_reducible apply (h.keeps_inFunc); done)); intro i2)
              try (apply stepWith heq; (focus (with_reducible apply (h.keeps_curFunc); done)); intro i3)
              try (first | (apply stepWith heq; (focus (with_reducible apply (h.keeps_NewInst); done)); clear h; intro h) | (apply stepWith heq; (focus (with_reducible apply (h.keeps_NewStore); done)); clear h; intro h) | (apply stepWith heq; (focus (with_reducible apply (h.keeps_NewTerm); done)); clear h; intro h) | (apply stepWith heq; (focus (with_reducible apply (h.keeps_NewInstAt); done)); clear h; intro h) | (apply stepWith heq; (focus (with_reducible apply (h.keeps_NewStoreAt); done)); clear h; intro h) | (apply stepWith heq; (focus (with_reducible apply (h.keeps_NewTermAt); done)); clear h; intro h) | (apply stepWith heq; (focus (with_reducible apply (h.keeps_NewBlock); done)); clear h; intro h) | (apply stepWith heq; (focus (with_reducible apply (h.keeps_NewBlockIn); done)); clear h; intro h) | (apply stepWith heq; (focus (with_reducible apply (ihr _ _ _ _ _ _ _ _ _ h.keeps_ext); done)); clear h; intro h) | (apply stepWith heq; (focus (with_reducible apply (Keeps.keeps_taggedSwitchValues ih1 h); done)); clear h; intro h) | fail)))
      | (cases e; first | done | exact Keeps.keeps_less (Keeps.keeps_ext h) | fail)
      | (dsimp only at e)
      | fail)

theorem Keeps.keeps_taggedSwitchCases {l : List CaseClause} (ih : ∀ c ∈ l, ∀ e ∈ c.values, ExprKept e)
    {a g x g' : IRGenerator} {B : List Nat} [KExt a g x B] {i : Nat} {switchValue : Value} {caseBlocks : List Nat} {currentBlock : Option Nat} [OwnedOpt a currentBlock] {r : Option Nat} (h : Keeps a g B)
    (e : taggedSwitchCases l i switchValue caseBlocks currentBlock x = .ok (r, g')) : Keeps a g' B :=
  taggedSwitchCases_keeps l ih _ _ _ _ a x g' B r h.keeps_ext e

theorem booleanSwitchCases_keeps (l : List CaseClause) (ih : ∀ c ∈ l, ∀ e ∈ c.values, ExprKept e) :
    ∀ (i : Nat) (caseBlocks : List Nat) (currentBlock : Option Nat) (a x g' : IRGenerator) (B : List Nat) (r : Option Nat) [OwnedOpt a currentBlock], Keeps a x B →
      booleanSwitchCases l i caseBlocks currentBlock x = .ok (r, g') → Keeps a g' B := by
  induction l with
  | nil =>
    intro i caseBlocks currentBlock a x g' B r _ h e
    rw [booleanSwitchCases_nil_eq] at e
    cases e
    exact h
  | cons c rest ihl =>
    intro i caseBlocks currentBlock a x g' B r _ h e
    have ihr := ihl (fun e he => ih e (List.mem_cons_of_mem _ he))
    rcases c with ⟨d, vs, b⟩
    have ih1 : ∀ e ∈ vs, ExprKept e := ih _ (List.mem_cons_self _ _)
    rw [booleanSwitchCases_cons_eq] at e
    try simp only [IRGenerator.NewAlloca, IRGenerator.NewLoad, IRGenerator.NewBin, IRGenerator.NewICmp, IRGenerator.NewFCmp, IRGenerator.NewGetElementPtr, IRGenerator.funcValue, NewCall_func, IRGenerator.NewCall, IRGenerator.NewZExt, IRGenerator.NewSelect, IRGenerator.NewBr, IRGenerator.NewCondBr, IRGenerator.NewRet, IRGenerator.NewUnreachable, IRGenerator.NewFunc, IRGenerator.NewGlobalDef] at e
    repeat' (first
      | (first | (revert e; with_reducible apply (Keeps.keeps_less ∘ (h.keeps_asResult)); done) | (revert e; with_reducible apply (Keeps.keeps_less ∘ (h.keeps_failWith)); done) | (revert e; with_reducible apply (Keeps.keeps_less ∘ (h.keeps_NewInst)); done) | (revert e; with_reducible apply (Keeps.keeps_less ∘ (h.keeps_NewStore)); done) | (revert e; with_reducible apply (Keeps.keeps_less ∘ (h.keeps_NewTerm)); done) | (revert e; with_reducible apply (Keeps.keeps_less ∘ (h.keeps_NewInstAt)); done) | (revert e; with_reducible apply (Keeps.keeps_less ∘ (h.keeps_NewStoreAt)); done) | (revert e; with_reducible apply (Keeps.keeps_less ∘ (h.keeps_NewTermAt)); done) | (revert e; with_reducible apply (Keeps.keeps_less ∘ (h.keeps_NewBlock)); done) | (revert e; with_reducible apply (Keeps.keeps_less ∘ (h.keeps_NewBlockIn)); done) | (revert e; with_reducible apply (Keeps.keeps_less ∘ (ihr _ _ _ _ _ _ _ _ h.keeps_ext)); done) | (revert e; with_reducible apply (Keeps.keeps_less ∘ (Keeps.keeps_booleanSwitchValues ih1 h)); done) | fail)
      | (apply stepWith e; (focus (with_reducible apply (@ite_ok _ _ _ _ _ _); done)); intro e2
         clear e
         rcases e2 with ⟨hc, e⟩ | ⟨hc, e⟩ <;>
         try (apply stepWith hc; (focus (with_reducible apply (h.keeps_inFuncNot); done)); intro i1))
      | (simp only [bind_assoc, pure_bind] at e)
      | (rw [bind_ok] at e
         obtain ⟨⟨x1, g1⟩, e1, e⟩ := e
         try dsimp only at e
         try (apply stepWith e1; (focus (with_reducible apply (h.keeps_inFuncNew); done)); intro f0)
         try (apply stepWith e1; (focus (with_reducible apply (h.keeps_ownedNew); done)); intro f1)
         try (apply stepWith e1; (focus (with_reducible apply (ptrVal_of_NewInst); done)); intro f2)
         first
           | (apply stepWith e1; (focus (with_reducible apply (h.keeps_NewInst); done)); clear h; intro h) | (apply stepWith e1; (focus (with_reducible apply (h.keeps_NewStore); done)); clear h; intro h) | (apply stepWith e1; (focus (with_reducible apply (h.keeps_NewTerm); done)); clear h; intro h) | (apply stepWith e1; (focus (with_reducible apply (h.keeps_NewInstAt); done)); clear h; intro h) | (apply stepWith e1; (focus (with_reducible apply (h.keeps_NewStoreAt); done)); clear h; intro h) | (apply stepWith e1; (focus (with_reducible apply (h.keeps_NewTermAt); done)); clear h; intro h) | (apply stepWith e1; (focus (with_reducible apply (h.keeps_NewBlock); done)); clear h; intro h) | (apply stepWith e1; (focus (with_reducible apply (h.keeps_NewBlockIn); done)); clear h; intro h) | (apply stepWith e1; (focus (with_reducible apply (ihr _ _ _ _ _ _ _ _ h.keeps_ext); done)); clear h; intro h) | (apply stepWith e1; (focus (with_reducible apply (Keeps.keeps_booleanSwitchValues ih1 h); done)); clear h; intro h)
           | (cases e1)
           | (refine Keeps.keeps_cutFrom h (b := g1) ?_ ?_ <;>
               first | (intro h2; clear h e1; rename' h2 => h) | (clear e; rename' e1 => e))
           | fail)
      | (split at e <;>
         try (rename_i heq
              try (apply stepWith heq; (focus (with_reducible apply (h.keeps_inFunc); done)); intro i2)
              try (apply stepWith heq; (focus (with_reducible apply (h.keeps_curFunc); done)); intro i3)
              try (first | (apply stepWith heq; (focus (with_reducible apply (h.keeps_NewInst); done)); clear h; intro h) | (apply stepWith heq; (focus (with_reducible apply (h.keeps_NewStore); done)); clear h; intro h) | (apply stepWith heq; (focus (with_reducible apply (h.keeps_NewTerm); done)); clear h; intro h) | (apply stepWith heq; (focus (with_reducible apply (h.keeps_NewInstAt); done)); clear h; intro h) | (apply stepWith heq; (focus (with_reducible apply (h.keeps_NewStoreAt); done)); clear h; intro h) | (apply stepWith heq; (focus (with_reducible apply (h.keeps_NewTermAt); done)); clear h; intro h) | (apply stepWith heq; (focus (with_reducible apply (h.keeps_NewBlock); done)); clear h; intro h) | (apply stepWith heq; (focus (with_reducible apply (h.keeps_NewBlockIn); done)); clear h; intro h) | (apply stepWith heq; (focus (with_reducible apply (ihr _ _ _ _ _ _ _ _ h.keeps_ext); done)); clear h; intro h) | (apply stepWith heq; (focus (with_reducible apply (Keeps.keeps_booleanSwitchValues ih1 h); done)); clear h; intro h) | fail)))
      | (cases e; first | done | exact Keeps.keeps_less (Keeps.keeps_ext h) | fail)
      | (dsimp only at e)
      | fail)

theorem Keeps.keeps_booleanSwitchCases {l : List CaseClause} (ih : ∀ c ∈ l, ∀ e ∈ c.values, ExprKept e)
    {a g x g' : IRGenerator} {B : List Nat} [KExt a g x B] {i : Nat} {caseBlocks : List Nat} {currentBlock : Option Nat} [OwnedOpt a currentBlock] {r : Option Nat} (h : Keeps a g B)
    (e : booleanSwitchCases l i caseBlocks currentBlock x = .ok (r, g')) : Keeps a g' B :=
  booleanSwitchCases_keeps l ih _ _ _ a x g' B r h.keeps_ext e

theorem switchBodies_keeps (l : List CaseClause) (ih : ∀ c ∈ l, ∀ s ∈ c.body, StmtKept s) :
    ∀ (i : Nat) (caseBlocks : List Nat) (endBlock : Nat) (a x g' : IRGenerator) (B : List Nat)
      (r : Unit) [InFunc a], (∀ j, j < l.length → i + j < caseBlocks.length) →
      (∀ b ∈ caseBlocks, a.nblocks ≤ b) → Keeps a x (caseBlocks ++ B) →
      switchBodies l i caseBlocks endBlock x = .ok (r, g') → Keeps a g' (caseBlocks ++ B) := by
  induction l with
  | nil =>
    intro i caseBlocks endBlock a x g' B r _ hr ho h e
    rw [switchBodies_nil_eq] at e
    cases e
    exact h
  | cons c rest ihl =>
    intro i caseBlocks endBlock a x g' B r _ hr ho h e
    have ihr := ihl (fun e he => ih e (List.mem_cons_of_mem _ he))
    rcases c with ⟨d, vs, b⟩
    have ih1 : ∀ s ∈ b, StmtKept s := ih _ (List.mem_cons_self _ _)
    have hi : i < caseBlocks.length := by simpa using hr 0 (by simp)
    have hm : caseBlocks.getD i 0 ∈ caseBlocks := by
      rw [List.getD_eq_getElem _ _ hi]
      exact List.getElem_mem _
    have o0 : Owned a (caseBlocks.getD i 0) := ⟨Or.inr (ho _ hm)⟩
    have m0 : Mem (caseBlocks.getD i 0) (caseBlocks ++ B) := ⟨List.mem_append_left _ hm⟩
    have hr2 : ∀ j, j < rest.length → i + 1 + j < caseBlocks.length := by
      intro j hj
      have := hr (j + 1) (by simp; omega)
      omega
    rw [switchBodies_cons_eq] at e
    repeat' (first
      | (first | (revert e; with_reducible apply (Keeps.keeps_less ∘ (h.keeps_asResult)); done) | (revert e; with_reducible apply (Keeps.keeps_less ∘ (h.keeps_failWith)); done) | (revert e; with_reducible apply (Keeps.keeps_less ∘ (h.keeps_NewInst)); done) | (revert e; with_reducible apply (Keeps.keeps_less ∘ (h.keeps_NewStore)); done) | (revert e; with_reducible apply (Keeps.keeps_less ∘ (h.keeps_NewTerm)); done) | (revert e; with_reducible apply (Keeps.keeps_less ∘ (h.keeps_NewInstAt)); done) | (revert e; with_reducible apply (Keeps.keeps_less ∘ (h.keeps_NewStoreAt)); done) | (revert e; with_reducible apply (Keeps.keeps_less ∘ (h.keeps_NewTermAt)); done) | (revert e; with_reducible apply (Keeps.keeps_less ∘ (h.keeps_NewBlock)); done) | (revert e; with_reducible apply (Keeps.keeps_less ∘ (h.keeps_NewBlockIn)); done) | (revert e; with_reducible apply (Keeps.keeps_less ∘ (ihr _ _ _ _ _ _ _ _ hr2 ho h.keeps_ext)); done) | (revert e; with_reducible apply (Keeps.keeps_less ∘ (Keeps.keeps_caseBody ih1 h)); done) | (revert e; with_reducible apply (Keeps.keeps_less ∘ (h.keeps_brIfOpen)); done) | fail)
      | (apply stepWith e; (focus (with_reducible apply (@ite_ok _ _ _ _ _ _); done)); intro e2
         clear e
         rcases e2 with ⟨hc, e⟩ | ⟨hc, e⟩ <;>
         try (apply stepWith hc; (focus (with_reducible apply (h.keeps_inFuncNot); done)); intro i1))
      | (simp only [bind_assoc, pure_bind] at e)
      | (rw [bind_ok] at e
         obtain ⟨⟨x1, g1⟩, e1, e⟩ := e
         try dsimp only at e
         try (apply stepWith e1; (focus (with_reducible apply (h.keeps_inFuncNew); done)); intro f0)
         try (apply stepWith e1; (focus (with_reducible apply (h.keeps_ownedNew); done)); intro f1)
         try (apply stepWith e1; (focus (with_reducible apply (ptrVal_of_NewInst); done)); intro f2)
         first
           | (apply stepWith e1; (focus (with_reducible apply (h.keeps_NewInst); done)); clear h; intro h) | (apply stepWith e1; (focus (with_reducible apply (h.keeps_NewStore); done)); clear h; intro h) | (apply stepWith e1; (focus (with_reducible apply (h.keeps_NewTerm); done)); clear h; intro h) | (apply stepWith e1; (focus (with_reducible apply (h.keeps_NewInstAt); done)); clear h; intro h) | (apply stepWith e1; (focus (with_reducible apply (h.keeps_NewStoreAt); done)); clear h; intro h) | (apply stepWith e1; (focus (with_reducible apply (h.keeps_NewTermAt); done)); clear h; intro h) | (apply stepWith e1; (focus (with_reducible apply (h.keeps_NewBlock); done)); clear h; intro h) | (apply stepWith e1; (focus (with_reducible apply (h.keeps_NewBlockIn); done)); clear h; intro h) | (apply stepWith e1; (focus (with_reducible apply (ihr _ _ _ _ _ _ _ _ hr2 ho h.keeps_ext); done)); clear h; intro h) | (apply stepWith e1; (focus (with_reducible apply (Keeps.keeps_caseBody ih1 h); done)); clear h; intro h) | (apply stepWith e1; (focus (with_reducible apply (h.keeps_brIfOpen); done)); clear h; intro h)
           | (cases e1)
           | (refine Keeps.keeps_cutFrom h (b := g1) ?_ ?_ <;>
               first | (intro h2; clear h e1; rename' h2 => h) | (clear e; rename' e1 => e))
           | fail)
      | (split at e <;>
         try (rename_i heq
              try (apply stepWith heq; (focus (with_reducible apply (h.keeps_inFunc); done)); intro i2)
              try (apply stepWith heq; (focus (with_reducible apply (h.keeps_curFunc); done)); intro i3)
              try (first | (apply stepWith heq; (focus (with_reducible apply (h.keeps_NewInst); done)); clear h; intro h) | (apply stepWith heq; (focus (with_reducible apply (h.keeps_NewStore); done)); clear h; intro h) | (apply stepWith heq; (focus (with_reducible apply (h.keeps_NewTerm); done)); clear h; intro h) | (apply stepWith heq; (focus (with_reducible apply (h.keeps_NewInstAt); done)); clear h; intro h) | (apply stepWith heq; (focus (with_reducible apply (h.keeps_NewStoreAt); done)); clear h; intro h) | (apply stepWith heq; (focus (with_reducible apply (h.keeps_NewTermAt); done)); clear h; intro h) | (apply stepWith heq; (focus (with_reducible apply (h.keeps_NewBlock); done)); clear h; intro h) | (apply stepWith heq; (focus (with_reducible apply (h.keeps_NewBlockIn); done)); clear h; intro h) | (apply stepWith heq; (focus (with_reducible apply (ihr _ _ _ _ _ _ _ _ hr2 ho h.keeps_ext); done)); clear h; intro h) | (apply stepWith heq; (focus (with_reducible apply (Keeps.keeps_caseBody ih1 h); done)); clear h; intro h) | (apply stepWith heq; (focus (with_reducible apply (h.keeps_brIfOpen); done)); clear h; intro h) | fail)))
      | (cases e; first | done | exact Keeps.keeps_less (Keeps.keeps_ext h) | fail)
      | (dsimp only at e)
      | fail)

theorem ExprKept.kept_identifier (name : String) :
    ExprKept (.Identifier name) := by
  constructor
  intro a g x g' B r _ h e
  replace h : Keeps a x B := h.keeps_ext
  rw [generateExpression_identifier_eq] at e
  try simp only [IRGenerator.NewAlloca, IRGenerator.NewLoad, IRGenerator.NewBin, IRGenerator.NewICmp, IRGenerator.NewFCmp, IRGenerator.NewGetElementPtr, IRGenerator.funcValue, NewCall_func, IRGenerator.NewCall, IRGenerator.NewZExt, IRGenerator.NewSelect, IRGenerator.NewBr, IRGenerator.NewCondBr, IRGenerator.NewRet, IRGenerator.NewUnreachable, IRGenerator.NewFunc, IRGenerator.NewGlobalDef] at e
  repeat' (first
    | (first | (revert e; with_reducible apply (Keeps.keeps_less ∘ (h.keeps_asResult)); done) | (revert e; with_reducible apply (Keeps.keeps_less ∘ (h.keeps_failWith)); done) | (revert e; with_reducible apply (Keeps.keeps_less ∘ (h.keeps_NewInst)); done) | (revert e; with_reducible apply (Keeps.keeps_less ∘ (h.keeps_NewStore)); done) | (revert e; with_reducible apply (Keeps.keeps_less ∘ (h.keeps_NewTerm)); done) | (revert e; with_reducible apply (Keeps.keeps_less ∘ (h.keeps_NewInstAt)); done) | (revert e; with_reducible apply (Keeps.keeps_less ∘ (h.keeps_NewStoreAt)); done) | (revert e; with_reducible apply (Keeps.keeps_less ∘ (h.keeps_NewTermAt)); done) | (revert e; with_reducible apply (Keeps.keeps_less ∘ (h.keeps_NewBlock)); done) | (revert e; with_reducible apply (Keeps.keeps_less ∘ (h.keeps_NewBlockIn)); done) | (revert e; with_reducible apply (Keeps.keeps_less ∘ (h.keeps_generateIdentifier)); done) | fail)
    | (apply stepWith e; (focus (with_reducible apply (@ite_ok _ _ _ _ _ _); done)); intro e2
       clear e
       rcases e2 with ⟨hc, e⟩ | ⟨hc, e⟩ <;>
       try (apply stepWith hc; (focus (with_reducible apply (h.keeps_inFuncNot); done)); intro i1))
    | (simp only [bind_assoc, pure_bind] at e)
    | (rw [bind_ok] at e
       obtain ⟨⟨x1, g1⟩, e1, e⟩ := e
       try dsimp only at e
       try (apply stepWith e1; (focus (with_reducible apply (h.keeps_inFuncNew); done)); intro f0)
       try (apply stepWith e1; (focus (with_reducible apply (h.keeps_ownedNew); done)); intro f1)
       try (apply stepWith e1; (focus (with_reducible apply (ptrVal_of_NewInst); done)); intro f2)
       first
         | (apply stepWith e1; (focus (with_reducible apply (h.keeps_NewInst); done)); clear h; intro h) | (apply stepWith e1; (focus (with_reducible apply (h.keeps_NewStore); done)); clear h; intro h) | (apply stepWith e1; (focus (with_reducible apply (h.keeps_NewTerm); done)); clear h; intro h) | (apply stepWith e1; (focus (with_reducible apply (h.keeps_NewInstAt); done)); clear h; intro h) | (apply stepWith e1; (focus (with_reducible apply (h.keeps_NewStoreAt); done)); clear h; intro h) | (apply stepWith e1; (focus (with_reducible apply (h.keeps_NewTermAt); done)); clear h; intro h) | (apply stepWith e1; (focus (with_reducible apply (h.keeps_NewBlock); done)); clear h; intro h) | (apply stepWith e1; (focus (with_reducible apply (h.keeps_NewBlockIn); done)); clear h; intro h) | (apply stepWith e1; (focus (with_reducible apply (h.keeps_generateIdentifier); done)); clear h; intro h)
         | (cases e1)
         | (refine Keeps.keeps_cutFrom h (b := g1) ?_ ?_ <;>
             first | (intro h2; clear h e1; rename' h2 => h) | (clear e; rename' e1 => e))
         | fail)
    | (split at e <;>
       try (rename_i heq
            try (apply stepWith heq; (focus (with_reducible apply (h.keeps_inFunc); done)); intro i2)
            try (apply stepWith heq; (focus (with_reducible apply (h.keeps_curFunc); done)); intro i3)
            try (first | (apply stepWith heq; (focus (with_reducible apply (h.keeps_NewInst); done)); clear h; intro h) | (apply stepWith heq; (focus (with_reducible apply (h.keeps_NewStore); done)); clear h; intro h) | (apply stepWith heq; (focus (with_reducible apply (h.keeps_NewTerm); done)); clear h; intro h) | (apply stepWith heq; (focus (with_reducible apply (h.keeps_NewInstAt); done)); clear h; intro h) | (apply stepWith heq; (focus (with_reducible apply (h.keeps_NewStoreAt); done)); clear h; intro h) | (apply stepWith heq; (focus (with_reducible apply (h.keeps_NewTermAt); done)); clear h; intro h) | (apply stepWith heq; (focus (with_reducible apply (h.keeps_NewBlock); done)); clear h; intro h) | (apply stepWith heq; (focus (with_reducible apply (h.keeps_NewBlockIn); done)); clear h; intro h) | (apply stepWith heq; (focus (with_reducible apply (h.keeps_generateIdentifier); done)); clear h; intro h) | fail)))
    | (cases e; first | done | exact Keeps.keeps_less (Keeps.keeps_ext h) | fail)
    | (dsimp only at e)
    | fail)

theorem ExprKept.kept_integer (v : Int) :
    ExprKept (.IntegerLiteral v) := by
  constructor
  intro a g x g' B r _ h e
  replace h : Keeps a x B := h.keeps_ext
  rw [generateExpression_integer_eq] at e
  try simp only [IRGenerator.NewAlloca, IRGenerator.NewLoad, IRGenerator.NewBin, IRGenerator.NewICmp, IRGenerator.NewFCmp, IRGenerator.NewGetElementPtr, IRGenerator.funcValue, NewCall_func, IRGenerator.NewCall, IRGenerator.NewZExt, IRGenerator.NewSelect, IRGenerator.NewBr, IRGenerator.NewCondBr, IRGenerator.NewRet, IRGenerator.NewUnreachable, IRGenerator.NewFunc, IRGenerator.NewGlobalDef] at e
  repeat' (first
    | (first | (revert e; with_reducible apply (Keeps.keeps_less ∘ (h.keeps_asResult)); done) | (revert e; with_reducible apply (Keeps.keeps_less ∘ (h.keeps_failWith)); done) | (revert e; with_reducible apply (Keeps.keeps_less ∘ (h.keeps_NewInst)); done) | (revert e; with_reducible apply (Keeps.keeps_less ∘ (h.keeps_NewStore)); done) | (revert e; with_reducible apply (Keeps.keeps_less ∘ (h.keeps_NewTerm)); done) | (revert e; with_reducible apply (Keeps.keeps_less ∘ (h.keeps_NewInstAt)); done) | (revert e; with_reducible apply (Keeps.keeps_less ∘ (h.keeps_NewStoreAt)); done) | (revert e; with_reducible apply (Keeps.keeps_less ∘ (h.keeps_NewTermAt)); done) | (revert e; with_reducible apply (Keeps.keeps_less ∘ (h.keeps_NewBlock)); done) | (revert e; with_reducible apply (Keeps.keeps_less ∘ (h.keeps_NewBlockIn)); done) | fail)
    | (apply stepWith e; (focus (with_reducible apply (@ite_ok _ _ _ _ _ _); done)); intro e2
       clear e
       rcases e2 with ⟨hc, e⟩ | ⟨hc, e⟩ <;>
       try (apply stepWith hc; (focus (with_reducible apply (h.keeps_inFuncNot); done)); intro i1))
    | (simp only [bind_assoc, pure_bind] at e)
    | (rw [bind_ok] at e
       obtain ⟨⟨x1, g1⟩, e1, e⟩ := e
       try dsimp only at e
       try (apply stepWith e1; (focus (with_reducible apply (h.keeps_inFuncNew); done)); intro f0)
       try (apply stepWith e1; (focus (with_reducible apply (h.keeps_ownedNew); done)); intro f1)
       try (apply stepWith e1; (focus (with_reducible apply (ptrVal_of_NewInst); done)); intro f2)
       first
         | (apply stepWith e1; (focus (with_reducible apply (h.keeps_NewInst); done)); clear h; intro h) | (apply stepWith e1; (focus (with_reducible apply (h.keeps_NewStore); done)); clear h; intro h) | (apply stepWith e1; (focus (with_reducible apply (h.keeps_NewTerm); done)); clear h; intro h) | (apply stepWith e1; (focus (with_reducible apply (h.keeps_NewInstAt); done)); clear h; intro h) | (apply stepWith e1; (focus (with_reducible apply (h.keeps_NewStoreAt); done)); clear h; intro h) | (apply stepWith e1; (focus (with_reducible apply (h.keeps_NewTermAt); done)); clear h; intro h) | (apply stepWith e1; (focus (with_reducible apply (h.keeps_NewBlock); done)); clear h; intro h) | (apply stepWith e1; (focus (with_reducible apply (h.keeps_NewBlockIn); done)); clear h; intro h)
         | (cases e1)
         | (refine Keeps.keeps_cutFrom h (b := g1) ?_ ?_ <;>
             first | (intro h2; clear h e1; rename' h2 => h) | (clear e; rename' e1 => e))
         | fail)
    | (split at e <;>
       try (rename_i heq
            try (apply stepWith heq; (focus (with_reducible apply (h.keeps_inFunc); done)); intro i2)
            try (apply stepWith heq; (focus (with_reducible apply (h.keeps_curFunc); done)); intro i3)
            try (first | (apply stepWith heq; (focus (with_reducible apply (h.keeps_NewInst); done)); clear h; intro h) | (apply stepWith heq; (focus (with_reducible apply (h.keeps_NewStore); done)); clear h; intro h) | (apply stepWith heq; (focus (with_reducible apply (h.keeps_NewTerm); done)); clear h; intro h) | (apply stepWith heq; (focus (with_reducible apply (h.keeps_NewInstAt); done)); clear h; intro h) | (apply stepWith heq; (focus (with_reducible apply (h.keeps_NewStoreAt); done)); clear h; intro h) | (apply stepWith heq; (focus (with_reducible apply (h.keeps_NewTermAt); done)); clear h; intro h) | (apply stepWith heq; (focus (with_reducible apply (h.keeps_NewBlock); done)); clear h; intro h) | (apply stepWith heq; (focus (with_reducible apply (h.keeps_NewBlockIn); done)); clear h; intro h) | fail)))
    | (cases e; first | done | exact Keeps.keeps_less (Keeps.keeps_ext h) | fail)
    | (dsimp only at e)
    | fail)

theorem ExprKept.kept_float (b : Nat) :
    ExprKept (.FloatLiteral b) := by
  constructor
  intro a g x g' B r _ h e
  replace h : Keeps a x B := h.keeps_ext
  rw [generateExpression_float_eq] at e
  try simp only [IRGenerator.NewAlloca, IRGenerator.NewLoad, IRGenerator.NewBin, IRGenerator.NewICmp, IRGenerator.NewFCmp, IRGenerator.NewGetElementPtr, IRGenerator.funcValue, NewCall_func, IRGenerator.NewCall, IRGenerator.NewZExt, IRGenerator.NewSelect, IRGenerator.NewBr, IRGenerator.NewCondBr, IRGenerator.NewRet, IRGenerator.NewUnreachable, IRGenerator.NewFunc, IRGenerator.NewGlobalDef] at e
  repeat' (first
    | (first | (revert e; with_reducible apply (Keeps.keeps_less ∘ (h.keeps_asResult)); done) | (revert e; with_reducible apply (Keeps.keeps_less ∘ (h.keeps_failWith)); done) | (revert e; with_reducible apply (Keeps.keeps_less ∘ (h.keeps_NewInst)); done) | (revert e; with_reducible apply (Keeps.keeps_less ∘ (h.keeps_NewStore)); done) | (revert e; with_reducible apply (Keeps.keeps_less ∘ (h.keeps_NewTerm)); done) | (revert e; with_reducible apply (Keeps.keeps_less ∘ (h.keeps_NewInstAt)); done) | (revert e; with_reducible apply (Keeps.keeps_less ∘ (h.keeps_NewStoreAt)); done) | (revert e; with_reducible apply (Keeps.keeps_less ∘ (h.keeps_NewTermAt)); done) | (revert e; with_reducible apply (Keeps.keeps_less ∘ (h.keeps_NewBlock)); done) | (revert e; with_reducible apply (Keeps.keeps_less ∘ (h.keeps_NewBlockIn)); done) | fail)
    | (apply stepWith e; (focus (with_reducible apply (@ite_ok _ _ _ _ _ _); done)); intro e2
       clear e
       rcases e2 with ⟨hc, e⟩ | ⟨hc, e⟩ <;>
       try (apply stepWith hc; (focus (with_reducible apply (h.keeps_inFuncNot); done)); intro i1))
    | (simp only [bind_assoc, pure_bind] at e)
    | (rw [bind_ok] at e
       obtain ⟨⟨x1, g1⟩, e1, e⟩ := e
       try dsimp only at e
       try (apply stepWith e1; (focus (with_reducible apply (h.keeps_inFuncNew); done)); intro f0)
       try (apply stepWith e1; (focus (with_reducible apply (h.keeps_ownedNew); done)); intro f1)
       try (apply stepWith e1; (focus (with_reducible apply (ptrVal_of_NewInst); done)); intro f2)
       first
         | (apply stepWith e1; (focus (with_reducible apply (h.keeps_NewInst); done)); clear h; intro h) | (apply stepWith e1; (focus (with_reducible apply (h.keeps_NewStore); done)); clear h; intro h) | (apply stepWith e1; (focus (with_reducible apply (h.keeps_NewTerm); done)); clear h; intro h) | (apply stepWith e1; (focus (with_reducible apply (h.keeps_NewInstAt); done)); clear h; intro h) | (apply stepWith e1; (focus (with_reducible apply (h.keeps_NewStoreAt); done)); clear h; intro h) | (apply stepWith e1; (focus (with_reducible apply (h.keeps_NewTermAt); done)); clear h; intro h) | (apply stepWith e1; (focus (with_reducible apply (h.keeps_NewBlock); done)); clear h; intro h) | (apply stepWith e1; (focus (with_reducible apply (h.keeps_NewBlockIn); done)); clear h; intro h)
         | (cases e1)
         | (refine Keeps.keeps_cutFrom h (b := g1) ?_ ?_ <;>
             first | (intro h2; clear h e1; rename' h2 => h) | (clear e; rename' e1 => e))
         | fail)
    | (split at e <;>
       try (rename_i heq
            try (apply stepWith heq; (focus (with_reducible apply (h.keeps_inFunc); done)); intro i2)
            try (apply stepWith heq; (focus (with_reducible apply (h.keeps_curFunc); done)); intro i3)
            try (first | (apply stepWith heq; (focus (with_reducible apply (h.keeps_NewInst); done)); clear h; intro h) | (apply stepWith heq; (focus (with_reducible apply (h.keeps_NewStore); done)); clear h; intro h) | (apply stepWith heq; (focus (with_reducible apply (h.keeps_NewTerm); done)); clear h; intro h) | (apply stepWith heq; (focus (with_reducible apply (h.keeps_NewInstAt); done)); clear h; intro h) | (apply stepWith heq; (focus (with_reducible apply (h.keeps_NewStoreAt); done)); clear h; intro h) | (apply stepWith heq; (focus (with_reducible apply (h.keeps_NewTermAt); done)); clear h; intro h) | (apply stepWith heq; (focus (with_reducible apply (h.keeps_NewBlock); done)); clear h; intro h) | (apply stepWith heq; (focus (with_reducible apply (h.keeps_NewBlockIn); done)); clear h; intro h) | fail)))
    | (cases e; first | done | exact Keeps.keeps_less (Keeps.keeps_ext h) | fail)
    | (dsimp only at e)
    | fail)

theorem ExprKept.kept_string (v : String) :
    ExprKept (.StringLiteral v) := by
  constructor
  intro a g x g' B r _ h e
  replace h : Keeps a x B := h.keeps_ext
  rw [generateExpression_string_eq] at e
  try simp only [IRGenerator.NewAlloca, IRGenerator.NewLoad, IRGenerator.NewBin, IRGenerator.NewICmp, IRGenerator.NewFCmp, IRGenerator.NewGetElementPtr, IRGenerator.funcValue, NewCall_func, IRGenerator.NewCall, IRGenerator.NewZExt, IRGenerator.NewSelect, IRGenerator.NewBr, IRGenerator.NewCondBr, IRGenerator.NewRet, IRGenerator.NewUnreachable, IRGenerator.NewFunc, IRGenerator.NewGlobalDef] at e
  repeat' (first
    | (first | (revert e; with_reducible apply (Keeps.keeps_less ∘ (h.keeps_asResult)); done) | (revert e; with_reducible apply (Keeps.keeps_less ∘ (h.keeps_failWith)); done) | (revert e; with_reducible apply (Keeps.keeps_less ∘ (h.keeps_NewInst)); done) | (revert e; with_reducible apply (Keeps.keeps_less ∘ (h.keeps_NewStore)); done) | (revert e; with_reducible apply (Keeps.keeps_less ∘ (h.keeps_NewTerm)); done) | (revert e; with_reducible apply (Keeps.keeps_less ∘ (h.keeps_NewInstAt)); done) | (revert e; with_reducible apply (Keeps.keeps_less ∘ (h.keeps_NewStoreAt)); done) | (revert e; with_reducible apply (Keeps.keeps_less ∘ (h.keeps_NewTermAt)); done) | (revert e; with_reducible apply (Keeps.keeps_less ∘ (h.keeps_NewBlock)); done) | (revert e; with_reducible apply (Keeps.keeps_less ∘ (h.keeps_NewBlockIn)); done) | fail)
    | (apply stepWith e; (focus (with_reducible apply (@ite_ok _ _ _ _ _ _); done)); intro e2
       clear e
       rcases e2 with ⟨hc, e⟩ | ⟨hc, e⟩ <;>
       try (apply stepWith hc; (focus (with_reducible apply (h.keeps_inFuncNot); done)); intro i1))
    | (simp only [bind_assoc, pure_bind] at e)
    | (rw [bind_ok] at e
       obtain ⟨⟨x1, g1⟩, e1, e⟩ := e
       try dsimp only at e
       try (apply stepWith e1; (focus (with_reducible apply (h.keeps_inFuncNew); done)); intro f0)
       try (apply stepWith e1; (focus (with_reducible apply (h.keeps_ownedNew); done)); intro f1)
       try (apply stepWith e1; (focus (with_reducible apply (ptrVal_of_NewInst); done)); intro f2)
       first
         | (apply stepWith e1; (focus (with_reducible apply (h.keeps_NewInst); done)); clear h; intro h) | (apply stepWith e1; (focus (with_reducible apply (h.keeps_NewStore); done)); clear h; intro h) | (apply stepWith e1; (focus (with_reducible apply (h.keeps_NewTerm); done)); clear h; intro h) | (apply stepWith e1; (focus (with_reducible apply (h.keeps_NewInstAt); done)); clear h; intro h) | (apply stepWith e1; (focus (with_reducible apply (h.keeps_NewStoreAt); done)); clear h; intro h) | (apply stepWith e1; (focus (with_reducible apply (h.keeps_NewTermAt); done)); clear h; intro h) | (apply stepWith e1; (focus (with_reducible apply (h.keeps_NewBlock); done)); clear h; intro h) | (apply stepWith e1; (focus (with_reducible apply (h.keeps_NewBlockIn); done)); clear h; intro h)
         | (cases e1)
         | (refine Keeps.keeps_cutFrom h (b := g1) ?_ ?_ <;>
             first | (intro h2; clear h e1; rename' h2 => h) | (clear e; rename' e1 => e))
         | fail)
    | (split at e <;>
       try (rename_i heq
            try (apply stepWith heq; (focus (with_reducible apply (h.keeps_inFunc); done)); intro i2)
            try (apply stepWith heq; (focus (with_reducible apply (h.keeps_curFunc); done)); intro i3)
            try (first | (apply stepWith heq; (focus (with_reducible apply (h.keeps_generateStringLiteral); done)); clear h; intro h) | (apply stepWith heq; (focus (with_reducible apply (h.keeps_NewInst); done)); clear h; intro h) | (apply stepWith heq; (focus (with_reducible apply (h.keeps_NewStore); done)); clear h; intro h) | (apply stepWith heq; (focus (with_reducible apply (h.keeps_NewTerm); done)); clear h; intro h) | (apply stepWith heq; (focus (with_reducible apply (h.keeps_NewInstAt); done)); clear h; intro h) | (apply stepWith heq; (focus (with_reducible apply (h.keeps_NewStoreAt); done)); clear h; intro h) | (apply stepWith heq; (focus (with_reducible apply (h.keeps_NewTermAt); done)); clear h; intro h) | (apply stepWith heq; (focus (with_reducible apply (h.keeps_NewBlock); done)); clear h; intro h) | (apply stepWith heq; (focus (with_reducible apply (h.keeps_NewBlockIn); done)); clear h; intro h) | fail)))
    | (cases e; first | done | exact Keeps.keeps_less (Keeps.keeps_ext h) | fail)
    | (dsimp only at e)
    | fail)

theorem ExprKept.kept_boolean (v : Bool) :
    ExprKept (.BooleanLiteral v) := by
  constructor
  intro a g x g' B r _ h e
  replace h : Keeps a x B := h.keeps_ext
  rw [generateExpression_boolean_eq] at e
  try simp only [IRGenerator.NewAlloca, IRGenerator.NewLoad, IRGenerator.NewBin, IRGenerator.NewICmp, IRGenerator.NewFCmp, IRGenerator.NewGetElementPtr, IRGenerator.funcValue, NewCall_func, IRGenerator.NewCall, IRGenerator.NewZExt, IRGenerator.NewSelect, IRGenerator.NewBr, IRGenerator.NewCondBr, IRGenerator.NewRet, IRGenerator.NewUnreachable, IRGenerator.NewFunc, IRGenerator.NewGlobalDef] at e
  repeat' (first
    | (first | (revert e; with_reducible apply (Keeps.keeps_less ∘ (h.keeps_asResult)); done) | (revert e; with_reducible apply (Keeps.keeps_less ∘ (h.keeps_failWith)); done) | (revert e; with_reducible apply (Keeps.keeps_less ∘ (h.keeps_NewInst)); done) | (revert e; with_reducible apply (Keeps.keeps_less ∘ (h.keeps_NewStore)); done) | (revert e; with_reducible apply (Keeps.keeps_less ∘ (h.keeps_NewTerm)); done) | (revert e; with_reducible apply (Keeps.keeps_less ∘ (h.keeps_NewInstAt)); done) | (revert e; with_reducible apply (Keeps.keeps_less ∘ (h.keeps_NewStoreAt)); done) | (revert e; with_reducible apply (Keeps.keeps_less ∘ (h.keeps_NewTermAt)); done) | (revert e; with_reducible apply (Keeps.keeps_less ∘ (h.keeps_NewBlock)); done) | (revert e; with_reducible apply (Keeps.keeps_less ∘ (h.keeps_NewBlockIn)); done) | fail)
    | (apply stepWith e; (focus (with_reducible apply (@ite_ok _ _ _ _ _ _); done)); intro e2
       clear e
       rcases e2 with ⟨hc, e⟩ | ⟨hc, e⟩ <;>
       try (apply stepWith hc; (focus (with_reducible apply (h.keeps_inFuncNot); done)); intro i1))
    | (simp only [bind_assoc, pure_bind] at e)
    | (rw [bind_ok] at e
       obtain ⟨⟨x1, g1⟩, e1, e⟩ := e
       try dsimp only at e
       try (apply stepWith e1; (focus (with_reducible apply (h.keeps_inFuncNew); done)); intro f0)
       try (apply stepWith e1; (focus (with_reducible apply (h.keeps_ownedNew); done)); intro f1)
       try (apply stepWith e1; (focus (with_reducible apply (ptrVal_of_NewInst); done)); intro f2)
       first
         | (apply stepWith e1; (focus (with_reducible apply (h.keeps_NewInst); done)); clear h; intro h) | (apply stepWith e1; (focus (with_reducible apply (h.keeps_NewStore); done)); clear h; intro h) | (apply stepWith e1; (focus (with_reducible apply (h.keeps_NewTerm); done)); clear h; intro h) | (apply stepWith e1; (focus (with_reducible apply (h.keeps_NewInstAt); done)); clear h; intro h) | (apply stepWith e1; (focus (with_reducible apply (h.keeps_NewStoreAt); done)); clear h; intro h) | (apply stepWith e1; (focus (with_reducible apply (h.keeps_NewTermAt); done)); clear h; intro h) | (apply stepWith e1; (focus (with_reducible apply (h.keeps_NewBlock); done)); clear h; intro h) | (apply stepWith e1; (focus (with_reducible apply (h.keeps_NewBlockIn); done)); clear h; intro h)
         | (cases e1)
         | (refine Keeps.keeps_cutFrom h (b := g1) ?_ ?_ <;>
             first | (intro h2; clear h e1; rename' h2 => h) | (clear e; rename' e1 => e))
         | fail)
    | (split at e <;>
       try (rename_i heq
            try (apply stepWith heq; (focus (with_reducible apply (h.keeps_inFunc); done)); intro i2)
            try (apply stepWith heq; (focus (with_reducible apply (h.keeps_curFunc); done)); intro i3)
            try (first | (apply stepWith heq; (focus (with_reducible apply (h.keeps_NewInst); done)); clear h; intro h) | (apply stepWith heq; (focus (with_reducible apply (h.keeps_NewStore); done)); clear h; intro h) | (apply stepWith heq; (focus (with_reducible apply (h.keeps_NewTerm); done)); clear h; intro h) | (apply stepWith heq; (focus (with_reducible apply (h.keeps_NewInstAt); done)); clear h; intro h) | (apply stepWith heq; (focus (with_reducible apply (h.keeps_NewStoreAt); done)); clear h; intro h) | (apply stepWith heq; (focus (with_reducible apply (h.keeps_NewTermAt); done)); clear h; intro h) | (apply stepWith heq; (focus (with_reducible apply (h.keeps_NewBlock); done)); clear h; intro h) | (apply stepWith heq; (focus (with_reducible apply (h.keeps_NewBlockIn); done)); clear h; intro h) | fail)))
    | (cases e; first | done | exact Keeps.keeps_less (Keeps.keeps_ext h) | fail)
    | (dsimp only at e)
    | fail)

theorem ExprKept.kept_prefix (op : String) {right : Expression} (ihr : ExprKept right) :
    ExprKept (.PrefixExpression op right) := by
  constructor
  intro a g x g' B r _ h e
  replace h : Keeps a x B := h.keeps_ext
  rw [generateExpression_prefix_eq] at e
  try simp only [IRGenerator.NewAlloca, IRGenerator.NewLoad, IRGenerator.NewBin, IRGenerator.NewICmp, IRGenerator.NewFCmp, IRGenerator.NewGetElementPtr, IRGenerator.funcValue, NewCall_func, IRGenerator.NewCall, IRGenerator.NewZExt, IRGenerator.NewSelect, IRGenerator.NewBr, IRGenerator.NewCondBr, IRGenerator.NewRet, IRGenerator.NewUnreachable, IRGenerator.NewFunc, IRGenerator.NewGlobalDef] at e
  repeat' (first
    | (first | (revert e; with_reducible apply (Keeps.keeps_less ∘ (h.keeps_asResult)); done) | (revert e; with_reducible apply (Keeps.keeps_less ∘ (h.keeps_failWith)); done) | (revert e; with_reducible apply (Keeps.keeps_less ∘ (h.keeps_NewInst)); done) | (revert e; with_reducible apply (Keeps.keeps_less ∘ (h.keeps_NewStore)); done) | (revert e; with_reducible apply (Keeps.keeps_less ∘ (h.keeps_NewTerm)); done) | (revert e; with_reducible apply (Keeps.keeps_less ∘ (h.keeps_NewInstAt)); done) | (revert e; with_reducible apply (Keeps.keeps_less ∘ (h.keeps_NewStoreAt)); done) | (revert e; with_reducible apply (Keeps.keeps_less ∘ (h.keeps_NewTermAt)); done) | (revert e; with_reducible apply (Keeps.keeps_less ∘ (h.keeps_NewBlock)); done) | (revert e; with_reducible apply (Keeps.keeps_less ∘ (h.keeps_NewBlockIn)); done) | (revert e; with_reducible apply (Keeps.keeps_less ∘ (ihr.keeps h)); done) | (revert e; with_reducible apply (Keeps.keeps_less ∘ (h.keeps_prefixOperator)); done) | fail)
    | (apply stepWith e; (focus (with_reducible apply (@ite_ok _ _ _ _ _ _); done)); intro e2
       clear e
       rcases e2 with ⟨hc, e⟩ | ⟨hc, e⟩ <;>
       try (apply stepWith hc; (focus (with_reducible apply (h.keeps_inFuncNot); done)); intro i1))
    | (simp only [bind_assoc, pure_bind] at e)
    | (rw [bind_ok] at e
       obtain ⟨⟨x1, g1⟩, e1, e⟩ := e
       try dsimp only at e
       try (apply stepWith e1; (focus (with_reducible apply (h.keeps_inFuncNew); done)); intro f0)
       try (apply stepWith e1; (focus (with_reducible apply (h.keeps_ownedNew); done)); intro f1)
       try (apply stepWith e1; (focus (with_reducible apply (ptrVal_of_NewInst); done)); intro f2)
       first
         | (apply stepWith e1; (focus (with_reducible apply (h.keeps_NewInst); done)); clear h; intro h) | (apply stepWith e1; (focus (with_reducible apply (h.keeps_NewStore); done)); clear h; intro h) | (apply stepWith e1; (focus (with_reducible apply (h.keeps_NewTerm); done)); clear h; intro h) | (apply stepWith e1; (focus (with_reducible apply (h.keeps_NewInstAt); done)); clear h; intro h) | (apply stepWith e1; (focus (with_reducible apply (h.keeps_NewStoreAt); done)); clear h; intro h) | (apply stepWith e1; (focus (with_reducible apply (h.keeps_NewTermAt); done)); clear h; intro h) | (apply stepWith e1; (focus (with_reducible apply (h.keeps_NewBlock); done)); clear h; intro h) | (apply stepWith e1; (focus (with_reducible apply (h.keeps_NewBlockIn); done)); clear h; intro h) | (apply stepWith e1; (focus (with_reducible apply (ihr.keeps h); done)); clear h; intro h) | (apply stepWith e1; (focus (with_reducible apply (h.keeps_prefixOperator); done)); clear h; intro h)
         | (cases e1)
         | (refine Keeps.keeps_cutFrom h (b := g1) ?_ ?_ <;>
             first | (intro h2; clear h e1; rename' h2 => h) | (clear e; rename' e1 => e))
         | fail)
    | (split at e <;>
       try (rename_i heq
            try (apply stepWith heq; (focus (with_reducible apply (h.keeps_inFunc); done)); intro i2)
            try (apply stepWith heq; (focus (with_reducible apply (h.keeps_curFunc); done)); intro i3)
            try (first | (apply stepWith heq; (focus (with_reducible apply (h.keeps_NewInst); done)); clear h; intro h) | (apply stepWith heq; (focus (with_reducible apply (h.keeps_NewStore); done)); clear h; intro h) | (apply stepWith heq; (focus (with_reducible apply (h.keeps_NewTerm); done)); clear h; intro h) | (apply stepWith heq; (focus (with_reducible apply (h.keeps_NewInstAt); done)); clear h; intro h) | (apply stepWith heq; (focus (with_reducible apply (h.keeps_NewStoreAt); done)); clear h; intro h) | (apply stepWith heq; (focus (with_reducible apply (h.keeps_NewTermAt); done)); clear h; intro h) | (apply stepWith heq; (focus (with_reducible apply (h.keeps_NewBlock); done)); clear h; intro h) | (apply stepWith heq; (focus (with_reducible apply (h.keeps_NewBlockIn); done)); clear h; intro h) | (apply stepWith heq; (focus (with_reducible apply (ihr.keeps h); done)); clear h; intro h) | (apply stepWith heq; (focus (with_reducible apply (h.keeps_prefixOperator); done)); clear h; intro h) | fail)))
    | (cases e; first | done | exact Keeps.keeps_less (Keeps.keeps_ext h) | fail)
    | (dsimp only at e)
    | fail)

theorem ExprKept.kept_infix {left : Expression} (op : String) {right : Expression} (ihl : ExprKept left) (ihr : ExprKept right) :
    ExprKept (.InfixExpression left op right) := by
  constructor
  intro a g x g' B r _ h e
  replace h : Keeps a x B := h.keeps_ext
  rw [generateExpression_infix_eq] at e
  try simp only [IRGenerator.NewAlloca, IRGenerator.NewLoad, IRGenerator.NewBin, IRGenerator.NewICmp, IRGenerator.NewFCmp, IRGenerator.NewGetElementPtr, IRGenerator.funcValue, NewCall_func, IRGenerator.NewCall, IRGenerator.NewZExt, IRGenerator.NewSelect, IRGenerator.NewBr, IRGenerator.NewCondBr, IRGenerator.NewRet, IRGenerator.NewUnreachable, IRGenerator.NewFunc, IRGenerator.NewGlobalDef] at e
  repeat' (first
    | (first | (revert e; with_reducible apply (Keeps.keeps_less ∘ (h.keeps_asResult)); done) | (revert e; with_reducible apply (Keeps.keeps_less ∘ (h.keeps_failWith)); done) | (revert e; with_reducible apply (Keeps.keeps_less ∘ (h.keeps_NewInst)); done) | (revert e; with_reducible apply (Keeps.keeps_less ∘ (h.keeps_NewStore)); done) | (revert e; with_reducible apply (Keeps.keeps_less ∘ (h.keeps_NewTerm)); done) | (revert e; with_reducible apply (Keeps.keeps_less ∘ (h.keeps_NewInstAt)); done) | (revert e; with_reducible apply (Keeps.keeps_less ∘ (h.keeps_NewStoreAt)); done) | (revert e; with_reducible apply (Keeps.keeps_less ∘ (h.keeps_NewTermAt)); done) | (revert e; with_reducible apply (Keeps.keeps_less ∘ (h.keeps_NewBlock)); done) | (revert e; with_reducible apply (Keeps.keeps_less ∘ (h.keeps_NewBlockIn)); done) | (revert e; with_reducible apply (Keeps.keeps_less ∘ (ihl.keeps h)); done) | (revert e; with_reducible apply (Keeps.keeps_less ∘ (ihr.keeps h)); done) | (revert e; with_reducible apply (Keeps.keeps_less ∘ (h.keeps_infixOperator)); done) | fail)
    | (apply stepWith e; (focus (with_reducible apply (@ite_ok _ _ _ _ _ _); done)); intro e2
       clear e
       rcases e2 with ⟨hc, e⟩ | ⟨hc, e⟩ <;>
       try (apply stepWith hc; (focus (with_reducible apply (h.keeps_inFuncNot); done)); intro i1))
    | (simp only [bind_assoc, pure_bind] at e)
    | (rw [bind_ok] at e
       obtain ⟨⟨x1, g1⟩, e1, e⟩ := e
       try dsimp only at e
       try (apply stepWith e1; (focus (with_reducible apply (h.keeps_inFuncNew); done)); intro f0)
       try (apply stepWith e1; (focus (with_reducible apply (h.keeps_ownedNew); done)); intro f1)
       try (apply stepWith e1; (focus (with_reducible apply (ptrVal_of_NewInst); done)); intro f2)
       first
         | (apply stepWith e1; (focus (with_reducible apply (h.keeps_NewInst); done)); clear h; intro h) | (apply stepWith e1; (focus (with_reducible apply (h.keeps_NewStore); done)); clear h; intro h) | (apply stepWith e1; (focus (with_reducible apply (h.keeps_NewTerm); done)); clear h; intro h) | (apply stepWith e1; (focus (with_reducible apply (h.keeps_NewInstAt); done)); clear h; intro h) | (apply stepWith e1; (focus (with_reducible apply (h.keeps_NewStoreAt); done)); clear h; intro h) | (apply stepWith e1; (focus (with_reducible apply (h.keeps_NewTermAt); done)); clear h; intro h) | (apply stepWith e1; (focus (with_reducible apply (h.keeps_NewBlock); done)); clear h; intro h) | (apply stepWith e1; (focus (with_reducible apply (h.keeps_NewBlockIn); done)); clear h; intro h) | (apply stepWith e1; (focus (with_reducible apply (ihl.keeps h); done)); clear h; intro h) | (apply stepWith e1; (focus (with_reducible apply (ihr.keeps h); done)); clear h; intro h) | (apply stepWith e1; (focus (with_reducible apply (h.keeps_infixOperator); done)); clear h; intro h)
         | (cases e1)
         | (refine Keeps.keeps_cutFrom h (b := g1) ?_ ?_ <;>
             first | (intro h2; clear h e1; rename' h2 => h) | (clear e; rename' e1 => e))
         | fail)
    | (split at e <;>
       try (rename_i heq
            try (apply stepWith heq; (focus (with_reducible apply (h.keeps_inFunc); done)); intro i2)
            try (apply stepWith heq; (focus (with_reducible apply (h.keeps_curFunc); done)); intro i3)
            try (first | (apply stepWith heq; (focus (with_reducible apply (h.keeps_NewInst); done)); clear h; intro h) | (apply stepWith heq; (focus (with_reducible apply (h.keeps_NewStore); done)); clear h; intro h) | (apply stepWith heq; (focus (with_reducible apply (h.keeps_NewTerm); done)); clear h; intro h) | (apply stepWith heq; (focus (with_reducible apply (h.keeps_NewInstAt); done)); clear h; intro h) | (apply stepWith heq; (focus (with_reducible apply (h.keeps_NewStoreAt); done)); clear h; intro h) | (apply stepWith heq; (focus (with_reducible apply (h.keeps_NewTermAt); done)); clear h; intro h) | (apply stepWith heq; (focus (with_reducible apply (h.keeps_NewBlock); done)); clear h; intro h) | (apply stepWith heq; (focus (with_reducible apply (h.keeps_NewBlockIn); done)); clear h; intro h) | (apply stepWith heq; (focus (with_reducible apply (ihl.keeps h); done)); clear h; intro h) | (apply stepWith heq; (focus (with_reducible apply (ihr.keeps h); done)); clear h; intro h) | (apply stepWith heq; (focus (with_reducible apply (h.keeps_infixOperator); done)); clear h; intro h) | fail)))
    | (cases e; first | done | exact Keeps.keeps_less (Keeps.keeps_ext h) | fail)
    | (dsimp only at e)
    | fail)

theorem ExprKept.kept_postfix (left : Expression) (op : String) :
    ExprKept (.PostfixExpression left op) := by
  constructor
  intro a g x g' B r _ h e
  replace h : Keeps a x B := h.keeps_ext
  rw [generateExpression_postfix_eq] at e
  try simp only [IRGenerator.NewAlloca, IRGenerator.NewLoad, IRGenerator.NewBin, IRGenerator.NewICmp, IRGenerator.NewFCmp, IRGenerator.NewGetElementPtr, IRGenerator.funcValue, NewCall_func, IRGenerator.NewCall, IRGenerator.NewZExt, IRGenerator.NewSelect, IRGenerator.NewBr, IRGenerator.NewCondBr, IRGenerator.NewRet, IRGenerator.NewUnreachable, IRGenerator.NewFunc, IRGenerator.NewGlobalDef] at e
  repeat' (first
    | (first | (revert e; with_reducible apply (Keeps.keeps_less ∘ (h.keeps_asResult)); done) | (revert e; with_reducible apply (Keeps.keeps_less ∘ (h.keeps_failWith)); done) | (revert e; with_reducible apply (Keeps.keeps_less ∘ (h.keeps_NewInst)); done) | (revert e; with_reducible apply (Keeps.keeps_less ∘ (h.keeps_NewStore)); done) | (revert e; with_reducible apply (Keeps.keeps_less ∘ (h.keeps_NewTerm)); done) | (revert e; with_reducible apply (Keeps.keeps_less ∘ (h.keeps_NewInstAt)); done) | (revert e; with_reducible apply (Keeps.keeps_less ∘ (h.keeps_NewStoreAt)); done) | (revert e; with_reducible apply (Keeps.keeps_less ∘ (h.keeps_NewTermAt)); done) | (revert e; with_reducible apply (Keeps.keeps_less ∘ (h.keeps_NewBlock)); done) | (revert e; with_reducible apply (Keeps.keeps_less ∘ (h.keeps_NewBlockIn)); done) | (revert e; with_reducible apply (Keeps.keeps_less ∘ (h.keeps_generatePostfixExpression)); done) | fail)
    | (apply stepWith e; (focus (with_reducible apply (@ite_ok _ _ _ _ _ _); done)); intro e2
       clear e
       rcases e2 with ⟨hc, e⟩ | ⟨hc, e⟩ <;>
       try (apply stepWith hc; (focus (with_reducible apply (h.keeps_inFuncNot); done)); intro i1))
    | (simp only [bind_assoc, pure_bind] at e)
    | (rw [bind_ok] at e
       obtain ⟨⟨x1, g1⟩, e1, e⟩ := e
       try dsimp only at e
       try (apply stepWith e1; (focus (with_reducible apply (h.keeps_inFuncNew); done)); intro f0)
       try (apply stepWith e1; (focus (with_reducible apply (h.keeps_ownedNew); done)); intro f1)
       try (apply stepWith e1; (focus (with_reducible apply (ptrVal_of_NewInst); done)); intro f2)
       first
         | (apply stepWith e1; (focus (with_reducible apply (h.keeps_NewInst); done)); clear h; intro h) | (apply stepWith e1; (focus (with_reducible apply (h.keeps_NewStore); done)); clear h; intro h) | (apply stepWith e1; (focus (with_reducible apply (h.keeps_NewTerm); done)); clear h; intro h) | (apply stepWith e1; (focus (with_reducible apply (h.keeps_NewInstAt); done)); clear h; intro h) | (apply stepWith e1; (focus (with_reducible apply (h.keeps_NewStoreAt); done)); clear h; intro h) | (apply stepWith e1; (focus (with_reducible apply (h.keeps_NewTermAt); done)); clear h; intro h) | (apply stepWith e1; (focus (with_reducible apply (h.keeps_NewBlock); done)); clear h; intro h) | (apply stepWith e1; (focus (with_reducible apply (h.keeps_NewBlockIn); done)); clear h; intro h) | (apply stepWith e1; (focus (with_reducible apply (h.keeps_generatePostfixExpression); done)); clear h; intro h)
         | (cases e1)
         | (refine Keeps.keeps_cutFrom h (b := g1) ?_ ?_ <;>
             first | (intro h2; clear h e1; rename' h2 => h) | (clear e; rename' e1 => e))
         | fail)
    | (split at e <;>
       try (rename_i heq
            try (apply stepWith heq; (focus (with_reducible apply (h.keeps_inFunc); done)); intro i2)
            try (apply stepWith heq; (focus (with_reducible apply (h.keeps_curFunc); done)); intro i3)
            try (first | (apply stepWith heq; (focus (with_reducible apply (h.keeps_NewInst); done)); clear h; intro h) | (apply stepWith heq; (focus (with_reducible apply (h.keeps_NewStore); done)); clear h; intro h) | (apply stepWith heq; (focus (with_reducible apply (h.keeps_NewTerm); done)); clear h; intro h) | (apply stepWith heq; (focus (with_reducible apply (h.keeps_NewInstAt); done)); clear h; intro h) | (apply stepWith heq; (focus (with_reducible apply (h.keeps_NewStoreAt); done)); clear h; intro h) | (apply stepWith heq; (focus (with_reducible apply (h.keeps_NewTermAt); done)); clear h; intro h) | (apply stepWith heq; (focus (with_reducible apply (h.keeps_NewBlock); done)); clear h; intro h) | (apply stepWith heq; (focus (with_reducible apply (h.keeps_NewBlockIn); done)); clear h; intro h) | (apply stepWith heq; (focus (with_reducible apply (h.keeps_generatePostfixExpression); done)); clear h; intro h) | fail)))
    | (cases e; first | done | exact Keeps.keeps_less (Keeps.keeps_ext h) | fail)
    | (dsimp only at e)
    | fail)

theorem ExprKept.kept_call (function : Expression) {arguments : List Expression} (ih : ∀ e ∈ arguments, ExprKept e) :
    ExprKept (.CallExpression function arguments) := by
  constructor
  intro a g x g' B r _ h e
  replace h : Keeps a x B := h.keeps_ext
  rw [generateExpression_call_eq] at e
  try simp only [IRGenerator.NewAlloca, IRGenerator.NewLoad, IRGenerator.NewBin, IRGenerator.NewICmp, IRGenerator.NewFCmp, IRGenerator.NewGetElementPtr, IRGenerator.funcValue, NewCall_func, IRGenerator.NewCall, IRGenerator.NewZExt, IRGenerator.NewSelect, IRGenerator.NewBr, IRGenerator.NewCondBr, IRGenerator.NewRet, IRGenerator.NewUnreachable, IRGenerator.NewFunc, IRGenerator.NewGlobalDef] at e
  repeat' (first
    | (first | (revert e; with_reducible apply (Keeps.keeps_less ∘ (h.keeps_asResult)); done) | (revert e; with_reducible apply (Keeps.keeps_less ∘ (h.keeps_failWith)); done) | (revert e; with_reducible apply (Keeps.keeps_less ∘ (h.keeps_NewInst)); done) | (revert e; with_reducible apply (Keeps.keeps_less ∘ (h.keeps_NewStore)); done) | (revert e; with_reducible apply (Keeps.keeps_less ∘ (h.keeps_NewTerm)); done) | (revert e; with_reducible apply (Keeps.keeps_less ∘ (h.keeps_NewInstAt)); done) | (revert e; with_reducible apply (Keeps.keeps_less ∘ (h.keeps_NewStoreAt)); done) | (revert e; with_reducible apply (Keeps.keeps_less ∘ (h.keeps_NewTermAt)); done) | (revert e; with_reducible apply (Keeps.keeps_less ∘ (h.keeps_NewBlock)); done) | (revert e; with_reducible apply (Keeps.keeps_less ∘ (h.keeps_NewBlockIn)); done) | (revert e; with_reducible apply (Keeps.keeps_less ∘ (Keeps.keeps_generateLenCall ih h)); done) | (revert e; with_reducible apply (Keeps.keeps_less ∘ (Keeps.keeps_generateCapCall ih h)); done) | (revert e; with_reducible apply (Keeps.keeps_less ∘ (Keeps.keeps_generateAppendCall ih h)); done) | (revert e; with_reducible apply (Keeps.keeps_less ∘ (Keeps.keeps_generateMakeCall ih h)); done) | (revert e; with_reducible apply (Keeps.keeps_less ∘ (Keeps.keeps_callArguments ih h)); done) | fail)
    | (apply stepWith e; (focus (with_reducible apply (@ite_ok _ _ _ _ _ _); done)); intro e2
       clear e
       rcases e2 with ⟨hc, e⟩ | ⟨hc, e⟩ <;>
       try (apply stepWith hc; (focus (with_reducible apply (h.keeps_inFuncNot); done)); intro i1))
    | (simp only [bind_assoc, pure_bind] at e)
    | (rw [bind_ok] at e
       obtain ⟨⟨x1, g1⟩, e1, e⟩ := e
       try dsimp only at e
       try (apply stepWith e1; (focus (with_reducible apply (h.keeps_inFuncNew); done)); intro f0)
       try (apply stepWith e1; (focus (with_reducible apply (h.keeps_ownedNew); done)); intro f1)
       try (apply stepWith e1; (focus (with_reducible apply (ptrVal_of_NewInst); done)); intro f2)
       first
         | (apply stepWith e1; (focus (with_reducible apply (h.keeps_NewInst); done)); clear h; intro h) | (apply stepWith e1; (focus (with_reducible apply (h.keeps_NewStore); done)); clear h; intro h) | (apply stepWith e1; (focus (with_reducible apply (h.keeps_NewTerm); done)); clear h; intro h) | (apply stepWith e1; (focus (with_reducible apply (h.keeps_NewInstAt); done)); clear h; intro h) | (apply stepWith e1; (focus (with_reducible apply (h.keeps_NewStoreAt); done)); clear h; intro h) | (apply stepWith e1; (focus (with_reducible apply (h.keeps_NewTermAt); done)); clear h; intro h) | (apply stepWith e1; (focus (with_reducible apply (h.keeps_NewBlock); done)); clear h; intro h) | (apply stepWith e1; (focus (with_reducible apply (h.keeps_NewBlockIn); done)); clear h; intro h) | (apply stepWith e1; (focus (with_reducible apply (Keeps.keeps_generateLenCall ih h); done)); clear h; intro h) | (apply stepWith e1; (focus (with_reducible apply (Keeps.keeps_generateCapCall ih h); done)); clear h; intro h) | (apply stepWith e1; (focus (with_reducible apply (Keeps.keeps_generateAppendCall ih h); done)); clear h; intro h) | (apply stepWith e1; (focus (with_reducible apply (Keeps.keeps_generateMakeCall ih h); done)); clear h; intro h) | (apply stepWith e1; (focus (with_reducible apply (Keeps.keeps_callArguments ih h); done)); clear h; intro h)
         | (cases e1)
         | (refine Keeps.keeps_cutFrom h (b := g1) ?_ ?_ <;>
             first | (intro h2; clear h e1; rename' h2 => h) | (clear e; rename' e1 => e))
         | fail)
    | (split at e <;>
       try (rename_i heq
            try (apply stepWith heq; (focus (with_reducible apply (h.keeps_inFunc); done)); intro i2)
            try (apply stepWith heq; (focus (with_reducible apply (h.keeps_curFunc); done)); intro i3)
            try (first | (apply stepWith heq; (focus (with_reducible apply (h.keeps_resolveCallee); done)); clear h; intro h) | (apply stepWith heq; (focus (with_reducible apply (h.keeps_NewInst); done)); clear h; intro h) | (apply stepWith heq; (focus (with_reducible apply (h.keeps_NewStore); done)); clear h; intro h) | (apply stepWith heq; (focus (with_reducible apply (h.keeps_NewTerm); done)); clear h; intro h) | (apply stepWith heq; (focus (with_reducible apply (h.keeps_NewInstAt); done)); clear h; intro h) | (apply stepWith heq; (focus (with_reducible apply (h.keeps_NewStoreAt); done)); clear h; intro h) | (apply stepWith heq; (focus (with_reducible apply (h.keeps_NewTermAt); done)); clear h; intro h) | (apply stepWith heq; (focus (with_reducible apply (h.keeps_NewBlock); done)); clear h; intro h) | (apply stepWith heq; (focus (with_reducible apply (h.keeps_NewBlockIn); done)); clear h; intro h) | (apply stepWith heq; (focus (with_reducible apply (Keeps.keeps_generateLenCall ih h); done)); clear h; intro h) | (apply stepWith heq; (focus (with_reducible apply (Keeps.keeps_generateCapCall ih h); done)); clear h; intro h) | (apply stepWith heq; (focus (with_reducible apply (Keeps.keeps_generateAppendCall ih h); done)); clear h; intro h) | (apply stepWith heq; (focus (with_reducible apply (Keeps.keeps_generateMakeCall ih h); done)); clear h; intro h) | (apply stepWith heq; (focus (with_reducible apply (Keeps.keeps_callArguments ih h); done)); clear h; intro h) | fail)))
    | (cases e; first | done | exact Keeps.keeps_less (Keeps.keeps_ext h) | fail)
    | (dsimp only at e)
    | fail)

theorem ExprKept.kept_memberCall (object member : Expression) {arguments : List Expression} (ih : ∀ e ∈ arguments, ExprKept e) :
    ExprKept (.MemberCall object member arguments) := by
  constructor
  intro a g x g' B r _ h e
  replace h : Keeps a x B := h.keeps_ext
  rw [generateExpression_memberCall_eq] at e
  try simp only [IRGenerator.NewAlloca, IRGenerator.NewLoad, IRGenerator.NewBin, IRGenerator.NewICmp, IRGenerator.NewFCmp, IRGenerator.NewGetElementPtr, IRGenerator.funcValue, NewCall_func, IRGenerator.NewCall, IRGenerator.NewZExt, IRGenerator.NewSelect, IRGenerator.NewBr, IRGenerator.NewCondBr, IRGenerator.NewRet, IRGenerator.NewUnreachable, IRGenerator.NewFunc, IRGenerator.NewGlobalDef] at e
  repeat' (first
    | (first | (revert e; with_reducible apply (Keeps.keeps_less ∘ (h.keeps_asResult)); done) | (revert e; with_reducible apply (Keeps.keeps_less ∘ (h.keeps_failWith)); done) | (revert e; with_reducible apply (Keeps.keeps_less ∘ (h.keeps_NewInst)); done) | (revert e; with_reducible apply (Keeps.keeps_less ∘ (h.keeps_NewStore)); done) | (revert e; with_reducible apply (Keeps.keeps_less ∘ (h.keeps_NewTerm)); done) | (revert e; with_reducible apply (Keeps.keeps_less ∘ (h.keeps_NewInstAt)); done) | (revert e; with_reducible apply (Keeps.keeps_less ∘ (h.keeps_NewStoreAt)); done) | (revert e; with_reducible apply (Keeps.keeps_less ∘ (h.keeps_NewTermAt)); done) | (revert e; with_reducible apply (Keeps.keeps_less ∘ (h.keeps_NewBlock)); done) | (revert e; with_reducible apply (Keeps.keeps_less ∘ (h.keeps_NewBlockIn)); done) | (revert e; with_reducible apply (Keeps.keeps_less ∘ (h.keeps_printfNoArguments)); done) | (revert e; with_reducible apply (Keeps.keeps_less ∘ (Keeps.keeps_printfArguments ih h)); done) | (revert e; with_reducible apply (Keeps.keeps_less ∘ (h.keeps_printfCall)); done) | (revert e; with_reducible apply (Keeps.keeps_less ∘ (Keeps.keeps_generateExitCall ih h)); done) | (revert e; with_reducible apply (Keeps.keeps_less ∘ (Keeps.keeps_callArguments ih h)); done) | fail)
    | (apply stepWith e; (focus (with_reducible apply (@ite_ok _ _ _ _ _ _); done)); intro e2
       clear e
       rcases e2 with ⟨hc, e⟩ | ⟨hc, e⟩ <;>
       try (apply stepWith hc; (focus (with_reducible apply (h.keeps_inFuncNot); done)); intro i1))
    | (simp only [bind_assoc, pure_bind] at e)
    | (rw [bind_ok] at e
       obtain ⟨⟨x1, g1⟩, e1, e⟩ := e
       try dsimp only at e
       try (apply stepWith e1; (focus (with_reducible apply (h.keeps_inFuncNew); done)); intro f0)
       try (apply stepWith e1; (focus (with_reducible apply (h.keeps_ownedNew); done)); intro f1)
       try (apply stepWith e1; (focus (with_reducible apply (ptrVal_of_NewInst); done)); intro f2)
       first
         | (apply stepWith e1; (focus (with_reducible apply (h.keeps_NewInst); done)); clear h; intro h) | (apply stepWith e1; (focus (with_reducible apply (h.keeps_NewStore); done)); clear h; intro h) | (apply stepWith e1; (focus (with_reducible apply (h.keeps_NewTerm); done)); clear h; intro h) | (apply stepWith e1; (focus (with_reducible apply (h.keeps_NewInstAt); done)); clear h; intro h) | (apply stepWith e1; (focus (with_reducible apply (h.keeps_NewStoreAt); done)); clear h; intro h) | (apply stepWith e1; (focus (with_reducible apply (h.keeps_NewTermAt); done)); clear h; intro h) | (apply stepWith e1; (focus (with_reducible apply (h.keeps_NewBlock); done)); clear h; intro h) | (apply stepWith e1; (focus (with_reducible apply (h.keeps_NewBlockIn); done)); clear h; intro h) | (apply stepWith e1; (focus (with_reducible apply (h.keeps_printfNoArguments); done)); clear h; intro h) | (apply stepWith e1; (focus (with_reducible apply (Keeps.keeps_printfArguments ih h); done)); clear h; intro h) | (apply stepWith e1; (focus (with_reducible apply (h.keeps_printfCall); done)); clear h; intro h) | (apply stepWith e1; (focus (with_reducible apply (Keeps.keeps_generateExitCall ih h); done)); clear h; intro h) | (apply stepWith e1; (focus (with_reducible apply (Keeps.keeps_callArguments ih h); done)); clear h; intro h)
         | (cases e1)
         | (refine Keeps.keeps_cutFrom h (b := g1) ?_ ?_ <;>
             first | (intro h2; clear h e1; rename' h2 => h) | (clear e; rename' e1 => e))
         | fail)
    | (split at e <;>
       try (rename_i heq
            try (apply stepWith heq; (focus (with_reducible apply (h.keeps_inFunc); done)); intro i2)
            try (apply stepWith heq; (focus (with_reducible apply (h.keeps_curFunc); done)); intro i3)
            try (first | (apply stepWith heq; (focus (with_reducible apply (h.keeps_getOrDeclare); done)); clear h; intro h) | (apply stepWith heq; (focus (with_reducible apply (h.keeps_resolveCallee); done)); clear h; intro h) | (apply stepWith heq; (focus (with_reducible apply (h.keeps_NewInst); done)); clear h; intro h) | (apply stepWith heq; (focus (with_reducible apply (h.keeps_NewStore); done)); clear h; intro h) | (apply stepWith heq; (focus (with_reducible apply (h.keeps_NewTerm); done)); clear h; intro h) | (apply stepWith heq; (focus (with_reducible apply (h.keeps_NewInstAt); done)); clear h; intro h) | (apply stepWith heq; (focus (with_reducible apply (h.keeps_NewStoreAt); done)); clear h; intro h) | (apply stepWith heq; (focus (with_reducible apply (h.keeps_NewTermAt); done)); clear h; intro h) | (apply stepWith heq; (focus (with_reducible apply (h.keeps_NewBlock); done)); clear h; intro h) | (apply stepWith heq; (focus (with_reducible apply (h.keeps_NewBlockIn); done)); clear h; intro h) | (apply stepWith heq; (focus (with_reducible apply (h.keeps_printfNoArguments); done)); clear h; intro h) | (apply stepWith heq; (focus (with_reducible apply (Keeps.keeps_printfArguments ih h); done)); clear h; intro h) | (apply stepWith heq; (focus (with_reducible apply (h.keeps_printfCall); done)); clear h; intro h) | (apply stepWith heq; (focus (with_reducible apply (Keeps.keeps_generateExitCall ih h); done)); clear h; intro h) | (apply stepWith heq; (focus (with_reducible apply (Keeps.keeps_callArguments ih h); done)); clear h; intro h) | fail)))
    | (cases e; first | done | exact Keeps.keeps_less (Keeps.keeps_ext h) | fail)
    | (dsimp only at e)
    | fail)

theorem ExprKept.kept_ifExpression {condition : Expression} {consequence alternative : Option (List Statement)} (ihc : ExprKept condition) (ih1 : ∀ l, consequence = some l → ∀ s ∈ l, StmtKept s)
    (ih2 : ∀ l, alternative = some l → ∀ s ∈ l, StmtKept s) :
    ExprKept (.IfExpression condition consequence alternative) := by
  constructor
  intro a g x g' B r _ h e
  replace h : Keeps a x B := h.keeps_ext
  rw [generateExpression_ifExpression_eq] at e
  try simp only [IRGenerator.NewAlloca, IRGenerator.NewLoad, IRGenerator.NewBin, IRGenerator.NewICmp, IRGenerator.NewFCmp, IRGenerator.NewGetElementPtr, IRGenerator.funcValue, NewCall_func, IRGenerator.NewCall, IRGenerator.NewZExt, IRGenerator.NewSelect, IRGenerator.NewBr, IRGenerator.NewCondBr, IRGenerator.NewRet, IRGenerator.NewUnreachable, IRGenerator.NewFunc, IRGenerator.NewGlobalDef] at e
  repeat' (first
    | (first | (revert e; with_reducible apply (Keeps.keeps_less ∘ (h.keeps_asResult)); done) | (revert e; with_reducible apply (Keeps.keeps_less ∘ (h.keeps_failWith)); done) | (revert e; with_reducible apply (Keeps.keeps_less ∘ (h.keeps_NewInst)); done) | (revert e; with_reducible apply (Keeps.keeps_less ∘ (h.keeps_NewStore)); done) | (revert e; with_reducible apply (Keeps.keeps_less ∘ (h.keeps_NewTerm)); done) | (revert e; with_reducible apply (Keeps.keeps_less ∘ (h.keeps_NewInstAt)); done) | (revert e; with_reducible apply (Keeps.keeps_less ∘ (h.keeps_NewStoreAt)); done) | (revert e; with_reducible apply (Keeps.keeps_less ∘ (h.keeps_NewTermAt)); done) | (revert e; with_reducible apply (Keeps.keeps_less ∘ (h.keeps_NewBlock)); done) | (revert e; with_reducible apply (Keeps.keeps_less ∘ (h.keeps_NewBlockIn)); done) | (revert e; with_reducible apply (Keeps.keeps_less ∘ (ihc.keeps h)); done) | (revert e; with_reducible apply (Keeps.keeps_less ∘ (Keeps.keeps_generateBlockStatement (ih1 _ (by rfl)) h)); done) | (revert e; with_reducible apply (Keeps.keeps_less ∘ (Keeps.keeps_generateBlockStatement (ih2 _ (by rfl)) h)); done) | (revert e; with_reducible apply (Keeps.keeps_less ∘ (h.keeps_brIfOpen)); done) | fail)
    | (apply stepWith e; (focus (with_reducible apply (@ite_ok _ _ _ _ _ _); done)); intro e2
       clear e
       rcases e2 with ⟨hc, e⟩ | ⟨hc, e⟩ <;>
       try (apply stepWith hc; (focus (with_reducible apply (h.keeps_inFuncNot); done)); intro i1))
    | (simp only [bind_assoc, pure_bind] at e)
    | (rw [bind_ok] at e
       obtain ⟨⟨x1, g1⟩, e1, e⟩ := e
       try dsimp only at e
       try (apply stepWith e1; (focus (with_reducible apply (h.keeps_inFuncNew); done)); intro f0)
       try (apply stepWith e1; (focus (with_reducible apply (h.keeps_ownedNew); done)); intro f1)
       try (apply stepWith e1; (focus (with_reducible apply (ptrVal_of_NewInst); done)); intro f2)
       first
         | (apply stepWith e1; (focus (with_reducible apply (h.keeps_NewInst); done)); clear h; intro h) | (apply stepWith e1; (focus (with_reducible apply (h.keeps_NewStore); done)); clear h; intro h) | (apply stepWith e1; (focus (with_reducible apply (h.keeps_NewTerm); done)); clear h; intro h) | (apply stepWith e1; (focus (with_reducible apply (h.keeps_NewInstAt); done)); clear h; intro h) | (apply stepWith e1; (focus (with_reducible apply (h.keeps_NewStoreAt); done)); clear h; intro h) | (apply stepWith e1; (focus (with_reducible apply (h.keeps_NewTermAt); done)); clear h; intro h) | (apply stepWith e1; (focus (with_reducible apply (h.keeps_NewBlock); done)); clear h; intro h) | (apply stepWith e1; (focus (with_reducible apply (h.keeps_NewBlockIn); done)); clear h; intro h) | (apply stepWith e1; (focus (with_reducible apply (ihc.keeps h); done)); clear h; intro h) | (apply stepWith e1; (focus (with_reducible apply (Keeps.keeps_generateBlockStatement (ih1 _ (by rfl)) h); done)); clear h; intro h) | (apply stepWith e1; (focus (with_reducible apply (Keeps.keeps_generateBlockStatement (ih2 _ (by rfl)) h); done)); clear h; intro h) | (apply stepWith e1; (focus (with_reducible apply (h.keeps_brIfOpen); done)); clear h; intro h)
         | (cases e1)
         | (refine Keeps.keeps_cutFrom h (b := g1) ?_ ?_ <;>
             first | (intro h2; clear h e1; rename' h2 => h) | (clear e; rename' e1 => e))
         | fail)
    | (split at e <;>
       try (rename_i heq
            try (apply stepWith heq; (focus (with_reducible apply (h.keeps_inFunc); done)); intro i2)
            try (apply stepWith heq; (focus (with_reducible apply (h.keeps_curFunc); done)); intro i3)
            try (first | (apply stepWith heq; (focus (with_reducible apply (h.keeps_NewInst); done)); clear h; intro h) | (apply stepWith heq; (focus (with_reducible apply (h.keeps_NewStore); done)); clear h; intro h) | (apply stepWith heq; (focus (with_reducible apply (h.keeps_NewTerm); done)); clear h; intro h) | (apply stepWith heq; (focus (with_reducible apply (h.keeps_NewInstAt); done)); clear h; intro h) | (apply stepWith heq; (focus (with_reducible apply (h.keeps_NewStoreAt); done)); clear h; intro h) | (apply stepWith heq; (focus (with_reducible apply (h.keeps_NewTermAt); done)); clear h; intro h) | (apply stepWith heq; (focus (with_reducible apply (h.keeps_NewBlock); done)); clear h; intro h) | (apply stepWith heq; (focus (with_reducible apply (h.keeps_NewBlockIn); done)); clear h; intro h) | (apply stepWith heq; (focus (with_reducible apply (ihc.keeps h); done)); clear h; intro h) | (apply stepWith heq; (focus (with_reducible apply (Keeps.keeps_generateBlockStatement (ih1 _ (by rfl)) h); done)); clear h; intro h) | (apply stepWith heq; (focus (with_reducible apply (Keeps.keeps_generateBlockStatement (ih2 _ (by rfl)) h); done)); clear h; intro h) | (apply stepWith heq; (focus (with_reducible apply (h.keeps_brIfOpen); done)); clear h; intro h) | fail)))
    | (cases e; first | done | exact Keeps.keeps_less (Keeps.keeps_ext h) | fail)
    | (dsimp only at e)
    | fail)

theorem ExprKept.kept_arrayLiteral {elements : List Expression} (ih : ∀ e ∈ elements, ExprKept e) :
    ExprKept (.ArrayLiteral elements) := by
  constructor
  intro a g x g' B r _ h e
  replace h : Keeps a x B := h.keeps_ext
  rw [generateExpression_arrayLiteral_eq] at e
  try simp only [IRGenerator.NewAlloca, IRGenerator.NewLoad, IRGenerator.NewBin, IRGenerator.NewICmp, IRGenerator.NewFCmp, IRGenerator.NewGetElementPtr, IRGenerator.funcValue, NewCall_func, IRGenerator.NewCall, IRGenerator.NewZExt, IRGenerator.NewSelect, IRGenerator.NewBr, IRGenerator.NewCondBr, IRGenerator.NewRet, IRGenerator.NewUnreachable, IRGenerator.NewFunc, IRGenerator.NewGlobalDef] at e
  repeat' (first
    | (first | (revert e; with_reducible apply (Keeps.keeps_less ∘ (h.keeps_asResult)); done) | (revert e; with_reducible apply (Keeps.keeps_less ∘ (h.keeps_failWith)); done) | (revert e; with_reducible apply (Keeps.keeps_less ∘ (h.keeps_NewInst)); done) | (revert e; with_reducible apply (Keeps.keeps_less ∘ (h.keeps_NewStore)); done) | (revert e; with_reducible apply (Keeps.keeps_less ∘ (h.keeps_NewTerm)); done) | (revert e; with_reducible apply (Keeps.keeps_less ∘ (h.keeps_NewInstAt)); done) | (revert e; with_reducible apply (Keeps.keeps_less ∘ (h.keeps_NewStoreAt)); done) | (revert e; with_reducible apply (Keeps.keeps_less ∘ (h.keeps_NewTermAt)); done) | (revert e; with_reducible apply (Keeps.keeps_less ∘ (h.keeps_NewBlock)); done) | (revert e; with_reducible apply (Keeps.keeps_less ∘ (h.keeps_NewBlockIn)); done) | (revert e; with_reducible apply (Keeps.keeps_less ∘ ((ih _ (List.mem_cons_self _ _)).keeps h)); done) | (revert e; with_reducible apply (Keeps.keeps_less ∘ (Keeps.keeps_arrayElements ih h)); done) | fail)
    | (apply stepWith e; (focus (with_reducible apply (@ite_ok _ _ _ _ _ _); done)); intro e2
       clear e
       rcases e2 with ⟨hc, e⟩ | ⟨hc, e⟩ <;>
       try (apply stepWith hc; (focus (with_reducible apply (h.keeps_inFuncNot); done)); intro i1))
    | (simp only [bind_assoc, pure_bind] at e)
    | (rw [bind_ok] at e
       obtain ⟨⟨x1, g1⟩, e1, e⟩ := e
       try dsimp only at e
       try (apply stepWith e1; (focus (with_reducible apply (h.keeps_inFuncNew); done)); intro f0)
       try (apply stepWith e1; (focus (with_reducible apply (h.keeps_ownedNew); done)); intro f1)
       try (apply stepWith e1; (focus (with_reducible apply (ptrVal_of_NewInst); done)); intro f2)
       first
         | (apply stepWith e1; (focus (with_reducible apply (h.keeps_NewInst); done)); clear h; intro h) | (apply stepWith e1; (focus (with_reducible apply (h.keeps_NewStore); done)); clear h; intro h) | (apply stepWith e1; (focus (with_reducible apply (h.keeps_NewTerm); done)); clear h; intro h) | (apply stepWith e1; (focus (with_reducible apply (h.keeps_NewInstAt); done)); clear h; intro h) | (apply stepWith e1; (focus (with_reducible apply (h.keeps_NewStoreAt); done)); clear h; intro h) | (apply stepWith e1; (focus (with_reducible apply (h.keeps_NewTermAt); done)); clear h; intro h) | (apply stepWith e1; (focus (with_reducible apply (h.keeps_NewBlock); done)); clear h; intro h) | (apply stepWith e1; (focus (with_reducible apply (h.keeps_NewBlockIn); done)); clear h; intro h) | (apply stepWith e1; (focus (with_reducible apply ((ih _ (List.mem_cons_self _ _)).keeps h); done)); clear h; intro h) | (apply stepWith e1; (focus (with_reducible apply (Keeps.keeps_arrayElements ih h); done)); clear h; intro h)
         | (cases e1)
         | (refine Keeps.keeps_cutFrom h (b := g1) ?_ ?_ <;>
             first | (intro h2; clear h e1; rename' h2 => h) | (clear e; rename' e1 => e))
         | fail)
    | (split at e <;>
       try (rename_i heq
            try (apply stepWith heq; (focus (with_reducible apply (h.keeps_inFunc); done)); intro i2)
            try (apply stepWith heq; (focus (with_reducible apply (h.keeps_curFunc); done)); intro i3)
            try (first | (apply stepWith heq; (focus (with_reducible apply (h.keeps_NewInst); done)); clear h; intro h) | (apply stepWith heq; (focus (with_reducible apply (h.keeps_NewStore); done)); clear h; intro h) | (apply stepWith heq; (focus (with_reducible apply (h.keeps_NewTerm); done)); clear h; intro h) | (apply stepWith heq; (focus (with_reducible apply (h.keeps_NewInstAt); done)); clear h; intro h) | (apply stepWith heq; (focus (with_reducible apply (h.keeps_NewStoreAt); done)); clear h; intro h) | (apply stepWith heq; (focus (with_reducible apply (h.keeps_NewTermAt); done)); clear h; intro h) | (apply stepWith heq; (focus (with_reducible apply (h.keeps_NewBlock); done)); clear h; intro h) | (apply stepWith heq; (focus (with_reducible apply (h.keeps_NewBlockIn); done)); clear h; intro h) | (apply stepWith heq; (focus (with_reducible apply ((ih _ (List.mem_cons_self _ _)).keeps h); done)); clear h; intro h) | (apply stepWith heq; (focus (with_reducible apply (Keeps.keeps_arrayElements ih h); done)); clear h; intro h) | fail)))
    | (cases e; first | done | exact Keeps.keeps_less (Keeps.keeps_ext h) | fail)
    | (dsimp only at e)
    | fail)

theorem ExprKept.kept_indexExpression {left index : Expression} (ihl : ExprKept left) (ihi : ExprKept index) :
    ExprKept (.IndexExpression left index) := by
  constructor
  intro a g x g' B r _ h e
  replace h : Keeps a x B := h.keeps_ext
  rw [generateExpression_indexExpression_eq] at e
  try simp only [IRGenerator.NewAlloca, IRGenerator.NewLoad, IRGenerator.NewBin, IRGenerator.NewICmp, IRGenerator.NewFCmp, IRGenerator.NewGetElementPtr, IRGenerator.funcValue, NewCall_func, IRGenerator.NewCall, IRGenerator.NewZExt, IRGenerator.NewSelect, IRGenerator.NewBr, IRGenerator.NewCondBr, IRGenerator.NewRet, IRGenerator.NewUnreachable, IRGenerator.NewFunc, IRGenerator.NewGlobalDef] at e
  repeat' (first
    | (first | (revert e; with_reducible apply (Keeps.keeps_less ∘ (h.keeps_asResult)); done) | (revert e; with_reducible apply (Keeps.keeps_less ∘ (h.keeps_failWith)); done) | (revert e; with_reducible apply (Keeps.keeps_less ∘ (h.keeps_NewInst)); done) | (revert e; with_reducible apply (Keeps.keeps_less ∘ (h.keeps_NewStore)); done) | (revert e; with_reducible apply (Keeps.keeps_less ∘ (h.keeps_NewTerm)); done) | (revert e; with_reducible apply (Keeps.keeps_less ∘ (h.keeps_NewInstAt)); done) | (revert e; with_reducible apply (Keeps.keeps_less ∘ (h.keeps_NewStoreAt)); done) | (revert e; with_reducible apply (Keeps.keeps_less ∘ (h.keeps_NewTermAt)); done) | (revert e; with_reducible apply (Keeps.keeps_less ∘ (h.keeps_NewBlock)); done) | (revert e; with_reducible apply (Keeps.keeps_less ∘ (h.keeps_NewBlockIn)); done) | (revert e; with_reducible apply (Keeps.keeps_less ∘ (ihl.keeps h)); done) | (revert e; with_reducible apply (Keeps.keeps_less ∘ (ihi.keeps h)); done) | (revert e; with_reducible apply (Keeps.keeps_less ∘ (h.keeps_indexAccess)); done) | fail)
    | (apply stepWith e; (focus (with_reducible apply (@ite_ok _ _ _ _ _ _); done)); intro e2
       clear e
       rcases e2 with ⟨hc, e⟩ | ⟨hc, e⟩ <;>
       try (apply stepWith hc; (focus (with_reducible apply (h.keeps_inFuncNot); done)); intro i1))
    | (simp only [bind_assoc, pure_bind] at e)
    | (rw [bind_ok] at e
       obtain ⟨⟨x1, g1⟩, e1, e⟩ := e
       try dsimp only at e
       try (apply stepWith e1; (focus (with_reducible apply (h.keeps_inFuncNew); done)); intro f0)
       try (apply stepWith e1; (focus (with_reducible apply (h.keeps_ownedNew); done)); intro f1)
       try (apply stepWith e1; (focus (with_reducible apply (ptrVal_of_NewInst); done)); intro f2)
       first
         | (apply stepWith e1; (focus (with_reducible apply (h.keeps_NewInst); done)); clear h; intro h) | (apply stepWith e1; (focus (with_reducible apply (h.keeps_NewStore); done)); clear h; intro h) | (apply stepWith e1; (focus (with_reducible apply (h.keeps_NewTerm); done)); clear h; intro h) | (apply stepWith e1; (focus (with_reducible apply (h.keeps_NewInstAt); done)); clear h; intro h) | (apply stepWith e1; (focus (with_reducible apply (h.keeps_NewStoreAt); done)); clear h; intro h) | (apply stepWith e1; (focus (with_reducible apply (h.keeps_NewTermAt); done)); clear h; intro h) | (apply stepWith e1; (focus (with_reducible apply (h.keeps_NewBlock); done)); clear h; intro h) | (apply stepWith e1; (focus (with_reducible apply (h.keeps_NewBlockIn); done)); clear h; intro h) | (apply stepWith e1; (focus (with_reducible apply (ihl.keeps h); done)); clear h; intro h) | (apply stepWith e1; (focus (with_reducible apply (ihi.keeps h); done)); clear h; intro h) | (apply stepWith e1; (focus (with_reducible apply (h.keeps_indexAccess); done)); clear h; intro h)
         | (cases e1)
         | (refine Keeps.keeps_cutFrom h (b := g1) ?_ ?_ <;>
             first | (intro h2; clear h e1; rename' h2 => h) | (clear e; rename' e1 => e))
         | fail)
    | (split at e <;>
       try (rename_i heq
            try (apply stepWith heq; (focus (with_reducible apply (h.keeps_inFunc); done)); intro i2)
            try (apply stepWith heq; (focus (with_reducible apply (h.keeps_curFunc); done)); intro i3)
            try (first | (apply stepWith heq; (focus (with_reducible apply (h.keeps_NewInst); done)); clear h; intro h) | (apply stepWith heq; (focus (with_reducible apply (h.keeps_NewStore); done)); clear h; intro h) | (apply stepWith heq; (focus (with_reducible apply (h.keeps_NewTerm); done)); clear h; intro h) | (apply stepWith heq; (focus (with_reducible apply (h.keeps_NewInstAt); done)); clear h; intro h) | (apply stepWith heq; (focus (with_reducible apply (h.keeps_NewStoreAt); done)); clear h; intro h) | (apply stepWith heq; (focus (with_reducible apply (h.keeps_NewTermAt); done)); clear h; intro h) | (apply stepWith heq; (focus (with_reducible apply (h.keeps_NewBlock); done)); clear h; intro h) | (apply stepWith heq; (focus (with_reducible apply (h.keeps_NewBlockIn); done)); clear h; intro h) | (apply stepWith heq; (focus (with_reducible apply (ihl.keeps h); done)); clear h; intro h) | (apply stepWith heq; (focus (with_reducible apply (ihi.keeps h); done)); clear h; intro h) | (apply stepWith heq; (focus (with_reducible apply (h.keeps_indexAccess); done)); clear h; intro h) | fail)))
    | (cases e; first | done | exact Keeps.keeps_less (Keeps.keeps_ext h) | fail)
    | (dsimp only at e)
    | fail)

theorem ExprKept.kept_arrayType (size : Option Expression) (elementType : Expression) :
    ExprKept (.ArrayType size elementType) := by
  constructor
  intro a g x g' B r _ h e
  replace h : Keeps a x B := h.keeps_ext
  rw [generateExpression_arrayType_eq] at e
  try simp only [IRGenerator.NewAlloca, IRGenerator.NewLoad, IRGenerator.NewBin, IRGenerator.NewICmp, IRGenerator.NewFCmp, IRGenerator.NewGetElementPtr, IRGenerator.funcValue, NewCall_func, IRGenerator.NewCall, IRGenerator.NewZExt, IRGenerator.NewSelect, IRGenerator.NewBr, IRGenerator.NewCondBr, IRGenerator.NewRet, IRGenerator.NewUnreachable, IRGenerator.NewFunc, IRGenerator.NewGlobalDef] at e
  repeat' (first
    | (first | (revert e; with_reducible apply (Keeps.keeps_less ∘ (h.keeps_asResult)); done) | (revert e; with_reducible apply (Keeps.keeps_less ∘ (h.keeps_failWith)); done) | (revert e; with_reducible apply (Keeps.keeps_less ∘ (h.keeps_NewInst)); done) | (revert e; with_reducible apply (Keeps.keeps_less ∘ (h.keeps_NewStore)); done) | (revert e; with_reducible apply (Keeps.keeps_less ∘ (h.keeps_NewTerm)); done) | (revert e; with_reducible apply (Keeps.keeps_less ∘ (h.keeps_NewInstAt)); done) | (revert e; with_reducible apply (Keeps.keeps_less ∘ (h.keeps_NewStoreAt)); done) | (revert e; with_reducible apply (Keeps.keeps_less ∘ (h.keeps_NewTermAt)); done) | (revert e; with_reducible apply (Keeps.keeps_less ∘ (h.keeps_NewBlock)); done) | (revert e; with_reducible apply (Keeps.keeps_less ∘ (h.keeps_NewBlockIn)); done) | fail)
    | (apply stepWith e; (focus (with_reducible apply (@ite_ok _ _ _ _ _ _); done)); intro e2
       clear e
       rcases e2 with ⟨hc, e⟩ | ⟨hc, e⟩ <;>
       try (apply stepWith hc; (focus (with_reducible apply (h.keeps_inFuncNot); done)); intro i1))
    | (simp only [bind_assoc, pure_bind] at e)
    | (rw [bind_ok] at e
       obtain ⟨⟨x1, g1⟩, e1, e⟩ := e
       try dsimp only at e
       try (apply stepWith e1; (focus (with_reducible apply (h.keeps_inFuncNew); done)); intro f0)
       try (apply stepWith e1; (focus (with_reducible apply (h.keeps_ownedNew); done)); intro f1)
       try (apply stepWith e1; (focus (with_reducible apply (ptrVal_of_NewInst); done)); intro f2)
       first
         | (apply stepWith e1; (focus (with_reducible apply (h.keeps_NewInst); done)); clear h; intro h) | (apply stepWith e1; (focus (with_reducible apply (h.keeps_NewStore); done)); clear h; intro h) | (apply stepWith e1; (focus (with_reducible apply (h.keeps_NewTerm); done)); clear h; intro h) | (apply stepWith e1; (focus (with_reducible apply (h.keeps_NewInstAt); done)); clear h; intro h) | (apply stepWith e1; (focus (with_reducible apply (h.keeps_NewStoreAt); done)); clear h; intro h) | (apply stepWith e1; (focus (with_reducible apply (h.keeps_NewTermAt); done)); clear h; intro h) | (apply stepWith e1; (focus (with_reducible apply (h.keeps_NewBlock); done)); clear h; intro h) | (apply stepWith e1; (focus (with_reducible apply (h.keeps_NewBlockIn); done)); clear h; intro h)
         | (cases e1)
         | (refine Keeps.keeps_cutFrom h (b := g1) ?_ ?_ <;>
             first | (intro h2; clear h e1; rename' h2 => h) | (clear e; rename' e1 => e))
         | fail)
    | (split at e <;>
       try (rename_i heq
            try (apply stepWith heq; (focus (with_reducible apply (h.keeps_inFunc); done)); intro i2)
            try (apply stepWith heq; (focus (with_reducible apply (h.keeps_curFunc); done)); intro i3)
            try (first | (apply stepWith heq; (focus (with_reducible apply (h.keeps_NewInst); done)); clear h; intro h) | (apply stepWith heq; (focus (with_reducible apply (h.keeps_NewStore); done)); clear h; intro h) | (apply stepWith heq; (focus (with_reducible apply (h.keeps_NewTerm); done)); clear h; intro h) | (apply stepWith heq; (focus (with_reducible apply (h.keeps_NewInstAt); done)); clear h; intro h) | (apply stepWith heq; (focus (with_reducible apply (h.keeps_NewStoreAt); done)); clear h; intro h) | (apply stepWith heq; (focus (with_reducible apply (h.keeps_NewTermAt); done)); clear h; intro h) | (apply stepWith heq; (focus (with_reducible apply (h.keeps_NewBlock); done)); clear h; intro h) | (apply stepWith heq; (focus (with_reducible apply (h.keeps_NewBlockIn); done)); clear h; intro h) | fail)))
    | (cases e; first | done | exact Keeps.keeps_less (Keeps.keeps_ext h) | fail)
    | (dsimp only at e)
    | fail)

theorem ExprKept.kept_otherExpression (t : String) :
    ExprKept (.Other t) := by
  constructor
  intro a g x g' B r _ h e
  replace h : Keeps a x B := h.keeps_ext
  rw [generateExpression_other_eq] at e
  try simp only [IRGenerator.NewAlloca, IRGenerator.NewLoad, IRGenerator.NewBin, IRGenerator.NewICmp, IRGenerator.NewFCmp, IRGenerator.NewGetElementPtr, IRGenerator.funcValue, NewCall_func, IRGenerator.NewCall, IRGenerator.NewZExt, IRGenerator.NewSelect, IRGenerator.NewBr, IRGenerator.NewCondBr, IRGenerator.NewRet, IRGenerator.NewUnreachable, IRGenerator.NewFunc, IRGenerator.NewGlobalDef] at e
  repeat' (first
    | (first | (revert e; with_reducible apply (Keeps.keeps_less ∘ (h.keeps_asResult)); done) | (revert e; with_reducible apply (Keeps.keeps_less ∘ (h.keeps_failWith)); done) | (revert e; with_reducible apply (Keeps.keeps_less ∘ (h.keeps_NewInst)); done) | (revert e; with_reducible apply (Keeps.keeps_less ∘ (h.keeps_NewStore)); done) | (revert e; with_reducible apply (Keeps.keeps_less ∘ (h.keeps_NewTerm)); done) | (revert e; with_reducible apply (Keeps.keeps_less ∘ (h.keeps_NewInstAt)); done) | (revert e; with_reducible apply (Keeps.keeps_less ∘ (h.keeps_NewStoreAt)); done) | (revert e; with_reducible apply (Keeps.keeps_less ∘ (h.keeps_NewTermAt)); done) | (revert e; with_reducible apply (Keeps.keeps_less ∘ (h.keeps_NewBlock)); done) | (revert e; with_reducible apply (Keeps.keeps_less ∘ (h.keeps_NewBlockIn)); done) | fail)
    | (apply stepWith e; (focus (with_reducible apply (@ite_ok _ _ _ _ _ _); done)); intro e2
       clear e
       rcases e2 with ⟨hc, e⟩ | ⟨hc, e⟩ <;>
       try (apply stepWith hc; (focus (with_reducible apply (h.keeps_inFuncNot); done)); intro i1))
    | (simp only [bind_assoc, pure_bind] at e)
    | (rw [bind_ok] at e
       obtain ⟨⟨x1, g1⟩, e1, e⟩ := e
       try dsimp only at e
       try (apply stepWith e1; (focus (with_reducible apply (h.keeps_inFuncNew); done)); intro f0)
       try (apply stepWith e1; (focus (with_reducible apply (h.keeps_ownedNew); done)); intro f1)
       try (apply stepWith e1; (focus (with_reducible apply (ptrVal_of_NewInst); done)); intro f2)
       first
         | (apply stepWith e1; (focus (with_reducible apply (h.keeps_NewInst); done)); clear h; intro h) | (apply stepWith e1; (focus (with_reducible apply (h.keeps_NewStore); done)); clear h; intro h) | (apply stepWith e1; (focus (with_reducible apply (h.keeps_NewTerm); done)); clear h; intro h) | (apply stepWith e1; (focus (with_reducible apply (h.keeps_NewInstAt); done)); clear h; intro h) | (apply stepWith e1; (focus (with_reducible apply (h.keeps_NewStoreAt); done)); clear h; intro h) | (apply stepWith e1; (focus (with_reducible apply (h.keeps_NewTermAt); done)); clear h; intro h) | (apply stepWith e1; (focus (with_reducible apply (h.keeps_NewBlock); done)); clear h; intro h) | (apply stepWith e1; (focus (with_reducible apply (h.keeps_NewBlockIn); done)); clear h; intro h)
         | (cases e1)
         | (refine Keeps.keeps_cutFrom h (b := g1) ?_ ?_ <;>
             first | (intro h2; clear h e1; rename' h2 => h) | (clear e; rename' e1 => e))
         | fail)
    | (split at e <;>
       try (rename_i heq
            try (apply stepWith heq; (focus (with_reducible apply (h.keeps_inFunc); done)); intro i2)
            try (apply stepWith heq; (focus (with_reducible apply (h.keeps_curFunc); done)); intro i3)
            try (first | (apply stepWith heq; (focus (with_reducible apply (h.keeps_NewInst); done)); clear h; intro h) | (apply stepWith heq; (focus (with_reducible apply (h.keeps_NewStore); done)); clear h; intro h) | (apply stepWith heq; (focus (with_reducible apply (h.keeps_NewTerm); done)); clear h; intro h) | (apply stepWith heq; (focus (with_reducible apply (h.keeps_NewInstAt); done)); clear h; intro h) | (apply stepWith heq; (focus (with_reducible apply (h.keeps_NewStoreAt); done)); clear h; intro h) | (apply stepWith heq; (focus (with_reducible apply (h.keeps_NewTermAt); done)); clear h; intro h) | (apply stepWith heq; (focus (with_reducible apply (h.keeps_NewBlock); done)); clear h; intro h) | (apply stepWith heq; (focus (with_reducible apply (h.keeps_NewBlockIn); done)); clear h; intro h) | fail)))
    | (cases e; first | done | exact Keeps.keeps_less (Keeps.keeps_ext h) | fail)
    | (dsimp only at e)
    | fail)

theorem StmtKept.kept_package (name : String) :
    StmtKept (.PackageStatement name) := by
  constructor
  intro a g x g' B r _ h e
  replace h : Keeps a x B := h.keeps_ext
  rw [generateStatement_package_eq] at e
  try simp only [IRGenerator.NewAlloca, IRGenerator.NewLoad, IRGenerator.NewBin, IRGenerator.NewICmp, IRGenerator.NewFCmp, IRGenerator.NewGetElementPtr, IRGenerator.funcValue, NewCall_func, IRGenerator.NewCall, IRGenerator.NewZExt, IRGenerator.NewSelect, IRGenerator.NewBr, IRGenerator.NewCondBr, IRGenerator.NewRet, IRGenerator.NewUnreachable, IRGenerator.NewFunc, IRGenerator.NewGlobalDef] at e
  repeat' (first
    | (first | (revert e; with_reducible apply (Keeps.keeps_less ∘ (h.keeps_asResult)); done) | (revert e; with_reducible apply (Keeps.keeps_less ∘ (h.keeps_failWith)); done) | (revert e; with_reducible apply (Keeps.keeps_less ∘ (h.keeps_NewInst)); done) | (revert e; with_reducible apply (Keeps.keeps_less ∘ (h.keeps_NewStore)); done) | (revert e; with_reducible apply (Keeps.keeps_less ∘ (h.keeps_NewTerm)); done) | (revert e; with_reducible apply (Keeps.keeps_less ∘ (h.keeps_NewInstAt)); done) | (revert e; with_reducible apply (Keeps.keeps_less ∘ (h.keeps_NewStoreAt)); done) | (revert e; with_reducible apply (Keeps.keeps_less ∘ (h.keeps_NewTermAt)); done) | (revert e; with_reducible apply (Keeps.keeps_less ∘ (h.keeps_NewBlock)); done) | (revert e; with_reducible apply (Keeps.keeps_less ∘ (h.keeps_NewBlockIn)); done) | fail)
    | (apply stepWith e; (focus (with_reducible apply (@ite_ok _ _ _ _ _ _); done)); intro e2
       clear e
       rcases e2 with ⟨hc, e⟩ | ⟨hc, e⟩ <;>
       try (apply stepWith hc; (focus (with_reducible apply (h.keeps_inFuncNot); done)); intro i1))
    | (simp only [bind_assoc, pure_bind] at e)
    | (rw [bind_ok] at e
       obtain ⟨⟨x1, g1⟩, e1, e⟩ := e
       try dsimp only at e
       try (apply stepWith e1; (focus (with_reducible apply (h.keeps_inFuncNew); done)); intro f0)
       try (apply stepWith e1; (focus (with_reducible apply (h.keeps_ownedNew); done)); intro f1)
       try (apply stepWith e1; (focus (with_reducible apply (ptrVal_of_NewInst); done)); intro f2)
       first
         | (apply stepWith e1; (focus (with_reducible apply (h.keeps_NewInst); done)); clear h; intro h) | (apply stepWith e1; (focus (with_reducible apply (h.keeps_NewStore); done)); clear h; intro h) | (apply stepWith e1; (focus (with_reducible apply (h.keeps_NewTerm); done)); clear h; intro h) | (apply stepWith e1; (focus (with_reducible apply (h.keeps_NewInstAt); done)); clear h; intro h) | (apply stepWith e1; (focus (with_reducible apply (h.keeps_NewStoreAt); done)); clear h; intro h) | (apply stepWith e1; (focus (with_reducible apply (h.keeps_NewTermAt); done)); clear h; intro h) | (apply stepWith e1; (focus (with_reducible apply (h.keeps_NewBlock); done)); clear h; intro h) | (apply stepWith e1; (focus (with_reducible apply (h.keeps_NewBlockIn); done)); clear h; intro h)
         | (cases e1)
         | (refine Keeps.keeps_cutFrom h (b := g1) ?_ ?_ <;>
             first | (intro h2; clear h e1; rename' h2 => h) | (clear e; rename' e1 => e))
         | fail)
    | (split at e <;>
       try (rename_i heq
            try (apply stepWith heq; (focus (with_reducible apply (h.keeps_inFunc); done)); intro i2)
            try (apply stepWith heq; (focus (with_reducible apply (h.keeps_curFunc); done)); intro i3)
            try (first | (apply stepWith heq; (focus (with_reducible apply (h.keeps_NewInst); done)); clear h; intro h) | (apply stepWith heq; (focus (with_reducible apply (h.keeps_NewStore); done)); clear h; intro h) | (apply stepWith heq; (focus (with_reducible apply (h.keeps_NewTerm); done)); clear h; intro h) | (apply stepWith heq; (focus (with_reducible apply (h.keeps_NewInstAt); done)); clear h; intro h) | (apply stepWith heq; (focus (with_reducible apply (h.keeps_NewStoreAt); done)); clear h; intro h) | (apply stepWith heq; (focus (with_reducible apply (h.keeps_NewTermAt); done)); clear h; intro h) | (apply stepWith heq; (focus (with_reducible apply (h.keeps_NewBlock); done)); clear h; intro h) | (apply stepWith heq; (focus (with_reducible apply (h.keeps_NewBlockIn); done)); clear h; intro h) | fail)))
    | (cases e; first | done | exact Keeps.keeps_less (Keeps.keeps_ext h) | fail)
    | (dsimp only at e)
    | fail)

theorem StmtKept.kept_importStatement  :
    StmtKept (.ImportStatement) := by
  constructor
  intro a g x g' B r _ h e
  replace h : Keeps a x B := h.keeps_ext
  rw [generateStatement_importStatement_eq] at e
  try simp only [IRGenerator.NewAlloca, IRGenerator.NewLoad, IRGenerator.NewBin, IRGenerator.NewICmp, IRGenerator.NewFCmp, IRGenerator.NewGetElementPtr, IRGenerator.funcValue, NewCall_func, IRGenerator.NewCall, IRGenerator.NewZExt, IRGenerator.NewSelect, IRGenerator.NewBr, IRGenerator.NewCondBr, IRGenerator.NewRet, IRGenerator.NewUnreachable, IRGenerator.NewFunc, IRGenerator.NewGlobalDef] at e
  repeat' (first
    | (first | (revert e; with_reducible apply (Keeps.keeps_less ∘ (h.keeps_asResult)); done) | (revert e; with_reducible apply (Keeps.keeps_less ∘ (h.keeps_failWith)); done) | (revert e; with_reducible apply (Keeps.keeps_less ∘ (h.keeps_NewInst)); done) | (revert e; with_reducible apply (Keeps.keeps_less ∘ (h.keeps_NewStore)); done) | (revert e; with_reducible apply (Keeps.keeps_less ∘ (h.keeps_NewTerm)); done) | (revert e; with_reducible apply (Keeps.keeps_less ∘ (h.keeps_NewInstAt)); done) | (revert e; with_reducible apply (Keeps.keeps_less ∘ (h.keeps_NewStoreAt)); done) | (revert e; with_reducible apply (Keeps.keeps_less ∘ (h.keeps_NewTermAt)); done) | (revert e; with_reducible apply (Keeps.keeps_less ∘ (h.keeps_NewBlock)); done) | (revert e; with_reducible apply (Keeps.keeps_less ∘ (h.keeps_NewBlockIn)); done) | fail)
    | (apply stepWith e; (focus (with_reducible apply (@ite_ok _ _ _ _ _ _); done)); intro e2
       clear e
       rcases e2 with ⟨hc, e⟩ | ⟨hc, e⟩ <;>
       try (apply stepWith hc; (focus (with_reducible apply (h.keeps_inFuncNot); done)); intro i1))
    | (simp only [bind_assoc, pure_bind] at e)
    | (rw [bind_ok] at e
       obtain ⟨⟨x1, g1⟩, e1, e⟩ := e
       try dsimp only at e
       try (apply stepWith e1; (focus (with_reducible apply (h.keeps_inFuncNew); done)); intro f0)
       try (apply stepWith e1; (focus (with_reducible apply (h.keeps_ownedNew); done)); intro f1)
       try (apply stepWith e1; (focus (with_reducible apply (ptrVal_of_NewInst); done)); intro f2)
       first
         | (apply stepWith e1; (focus (with_reducible apply (h.keeps_NewInst); done)); clear h; intro h) | (apply stepWith e1; (focus (with_reducible apply (h.keeps_NewStore); done)); clear h; intro h) | (apply stepWith e1; (focus (with_reducible apply (h.keeps_NewTerm); done)); clear h; intro h) | (apply stepWith e1; (focus (with_reducible apply (h.keeps_NewInstAt); done)); clear h; intro h) | (apply stepWith e1; (focus (with_reducible apply (h.keeps_NewStoreAt); done)); clear h; intro h) | (apply stepWith e1; (focus (with_reducible apply (h.keeps_NewTermAt); done)); clear h; intro h) | (apply stepWith e1; (focus (with_reducible apply (h.keeps_NewBlock); done)); clear h; intro h) | (apply stepWith e1; (focus (with_reducible apply (h.keeps_NewBlockIn); done)); clear h; intro h)
         | (cases e1)
         | (refine Keeps.keeps_cutFrom h (b := g1) ?_ ?_ <;>
             first | (intro h2; clear h e1; rename' h2 => h) | (clear e; rename' e1 => e))
         | fail)
    | (split at e <;>
       try (rename_i heq
            try (apply stepWith heq; (focus (with_reducible apply (h.keeps_inFunc); done)); intro i2)
            try (apply stepWith heq; (focus (with_reducible apply (h.keeps_curFunc); done)); intro i3)
            try (first | (apply stepWith heq; (focus (with_reducible apply (h.keeps_NewInst); done)); clear h; intro h) | (apply stepWith heq; (focus (with_reducible apply (h.keeps_NewStore); done)); clear h; intro h) | (apply stepWith heq; (focus (with_reducible apply (h.keeps_NewTerm); done)); clear h; intro h) | (apply stepWith heq; (focus (with_reducible apply (h.keeps_NewInstAt); done)); clear h; intro h) | (apply stepWith heq; (focus (with_reducible apply (h.keeps_NewStoreAt); done)); clear h; intro h) | (apply stepWith heq; (focus (with_reducible apply (h.keeps_NewTermAt); done)); clear h; intro h) | (apply stepWith heq; (focus (with_reducible apply (h.keeps_NewBlock); done)); clear h; intro h) | (apply stepWith heq; (focus (with_reducible apply (h.keeps_NewBlockIn); done)); clear h; intro h) | fail)))
    | (cases e; first | done | exact Keeps.keeps_less (Keeps.keeps_ext h) | fail)
    | (dsimp only at e)
    | fail)

theorem StmtKept.kept_expression {ex : Expression} (ih : ExprKept ex) :
    StmtKept (.ExpressionStatement ex) := by
  constructor
  intro a g x g' B r _ h e
  replace h : Keeps a x B := h.keeps_ext
  rw [generateStatement_expression_eq] at e
  try simp only [IRGenerator.NewAlloca, IRGenerator.NewLoad, IRGenerator.NewBin, IRGenerator.NewICmp, IRGenerator.NewFCmp, IRGenerator.NewGetElementPtr, IRGenerator.funcValue, NewCall_func, IRGenerator.NewCall, IRGenerator.NewZExt, IRGenerator.NewSelect, IRGenerator.NewBr, IRGenerator.NewCondBr, IRGenerator.NewRet, IRGenerator.NewUnreachable, IRGenerator.NewFunc, IRGenerator.NewGlobalDef] at e
  repeat' (first
    | (first | (revert e; with_reducible apply (Keeps.keeps_less ∘ (h.keeps_asResult)); done) | (revert e; with_reducible apply (Keeps.keeps_less ∘ (h.keeps_failWith)); done) | (revert e; with_reducible apply (Keeps.keeps_less ∘ (h.keeps_NewInst)); done) | (revert e; with_reducible apply (Keeps.keeps_less ∘ (h.keeps_NewStore)); done) | (revert e; with_reducible apply (Keeps.keeps_less ∘ (h.keeps_NewTerm)); done) | (revert e; with_reducible apply (Keeps.keeps_less ∘ (h.keeps_NewInstAt)); done) | (revert e; with_reducible apply (Keeps.keeps_less ∘ (h.keeps_NewStoreAt)); done) | (revert e; with_reducible apply (Keeps.keeps_less ∘ (h.keeps_NewTermAt)); done) | (revert e; with_reducible apply (Keeps.keeps_less ∘ (h.keeps_NewBlock)); done) | (revert e; with_reducible apply (Keeps.keeps_less ∘ (h.keeps_NewBlockIn)); done) | (revert e; with_reducible apply (Keeps.keeps_less ∘ (ih.keeps h)); done) | fail)
    | (apply stepWith e; (focus (with_reducible apply (@ite_ok _ _ _ _ _ _); done)); intro e2
       clear e
       rcases e2 with ⟨hc, e⟩ | ⟨hc, e⟩ <;>
       try (apply stepWith hc; (focus (with_reducible apply (h.keeps_inFuncNot); done)); intro i1))
    | (simp only [bind_assoc, pure_bind] at e)
    | (rw [bind_ok] at e
       obtain ⟨⟨x1, g1⟩, e1, e⟩ := e
       try dsimp only at e
       try (apply stepWith e1; (focus (with_reducible apply (h.keeps_inFuncNew); done)); intro f0)
       try (apply stepWith e1; (focus (with_reducible apply (h.keeps_ownedNew); done)); intro f1)
       try (apply stepWith e1; (focus (with_reducible apply (ptrVal_of_NewInst); done)); intro f2)
       first
         | (apply stepWith e1; (focus (with_reducible apply (h.keeps_NewInst); done)); clear h; intro h) | (apply stepWith e1; (focus (with_reducible apply (h.keeps_NewStore); done)); clear h; intro h) | (apply stepWith e1; (focus (with_reducible apply (h.keeps_NewTerm); done)); clear h; intro h) | (apply stepWith e1; (focus (with_reducible apply (h.keeps_NewInstAt); done)); clear h; intro h) | (apply stepWith e1; (focus (with_reducible apply (h.keeps_NewStoreAt); done)); clear h; intro h) | (apply stepWith e1; (focus (with_reducible apply (h.keeps_NewTermAt); done)); clear h; intro h) | (apply stepWith e1; (focus (with_reducible apply (h.keeps_NewBlock); done)); clear h; intro h) | (apply stepWith e1; (focus (with_reducible apply (h.keeps_NewBlockIn); done)); clear h; intro h) | (apply stepWith e1; (focus (with_reducible apply (ih.keeps h); done)); clear h; intro h)
         | (cases e1)
         | (refine Keeps.keeps_cutFrom h (b := g1) ?_ ?_ <;>
             first | (intro h2; clear h e1; rename' h2 => h) | (clear e; rename' e1 => e))
         | fail)
    | (split at e <;>
       try (rename_i heq
            try (apply stepWith heq; (focus (with_reducible apply (h.keeps_inFunc); done)); intro i2)
            try (apply stepWith heq; (focus (with_reducible apply (h.keeps_curFunc); done)); intro i3)
            try (first | (apply stepWith heq; (focus (with_reducible apply (h.keeps_NewInst); done)); clear h; intro h) | (apply stepWith heq; (focus (with_reducible apply (h.keeps_NewStore); done)); clear h; intro h) | (apply stepWith heq; (focus (with_reducible apply (h.keeps_NewTerm); done)); clear h; intro h) | (apply stepWith heq; (focus (with_reducible apply (h.keeps_NewInstAt); done)); clear h; intro h) | (apply stepWith heq; (focus (with_reducible apply (h.keeps_NewStoreAt); done)); clear h; intro h) | (apply stepWith heq; (focus (with_reducible apply (h.keeps_NewTermAt); done)); clear h; intro h) | (apply stepWith heq; (focus (with_reducible apply (h.keeps_NewBlock); done)); clear h; intro h) | (apply stepWith heq; (focus (with_reducible apply (h.keeps_NewBlockIn); done)); clear h; intro h) | (apply stepWith heq; (focus (with_reducible apply (ih.keeps h); done)); clear h; intro h) | fail)))
    | (cases e; first | done | exact Keeps.keeps_less (Keeps.keeps_ext h) | fail)
    | (dsimp only at e)
    | fail)

theorem StmtKept.kept_var (varName : String) (type : Option Expression) {value : Option Expression} (ihv : ∀ v, value = some v → ExprKept v) :
    StmtKept (.VarStatement varName type value) := by
  constructor
  intro a g x g' B r _ h e
  replace h : Keeps a x B := h.keeps_ext
  rw [generateStatement_var_eq] at e
  try simp only [IRGenerator.NewAlloca, IRGenerator.NewLoad, IRGenerator.NewBin, IRGenerator.NewICmp, IRGenerator.NewFCmp, IRGenerator.NewGetElementPtr, IRGenerator.funcValue, NewCall_func, IRGenerator.NewCall, IRGenerator.NewZExt, IRGenerator.NewSelect, IRGenerator.NewBr, IRGenerator.NewCondBr, IRGenerator.NewRet, IRGenerator.NewUnreachable, IRGenerator.NewFunc, IRGenerator.NewGlobalDef] at e
  repeat' (first
    | (first | (revert e; with_reducible apply (Keeps.keeps_less ∘ (h.keeps_asResult)); done) | (revert e; with_reducible apply (Keeps.keeps_less ∘ (h.keeps_failWith)); done) | (revert e; with_reducible apply (Keeps.keeps_less ∘ (h.keeps_NewInst)); done) | (revert e; with_reducible apply (Keeps.keeps_less ∘ (h.keeps_NewStore)); done) | (revert e; with_reducible apply (Keeps.keeps_less ∘ (h.keeps_NewTerm)); done) | (revert e; with_reducible apply (Keeps.keeps_less ∘ (h.keeps_NewInstAt)); done) | (revert e; with_reducible apply (Keeps.keeps_less ∘ (h.keeps_NewStoreAt)); done) | (revert e; with_reducible apply (Keeps.keeps_less ∘ (h.keeps_NewTermAt)); done) | (revert e; with_reducible apply (Keeps.keeps_less ∘ (h.keeps_NewBlock)); done) | (revert e; with_reducible apply (Keeps.keeps_less ∘ (h.keeps_NewBlockIn)); done) | (revert e; with_reducible apply (Keeps.keeps_less ∘ ((ihv _ (by rfl)).keeps h)); done) | fail)
    | (apply stepWith e; (focus (with_reducible apply (@ite_ok _ _ _ _ _ _); done)); intro e2
       clear e
       rcases e2 with ⟨hc, e⟩ | ⟨hc, e⟩ <;>
       try (apply stepWith hc; (focus (with_reducible apply (h.keeps_inFuncNot); done)); intro i1))
    | (simp only [bind_assoc, pure_bind] at e)
    | (rw [bind_ok] at e
       obtain ⟨⟨x1, g1⟩, e1, e⟩ := e
       try dsimp only at e
       try (apply stepWith e1; (focus (with_reducible apply (h.keeps_inFuncNew); done)); intro f0)
       try (apply stepWith e1; (focus (with_reducible apply (h.keeps_ownedNew); done)); intro f1)
       try (apply stepWith e1; (focus (with_reducible apply (ptrVal_of_NewInst); done)); intro f2)
       first
         | (apply stepWith e1; (focus (with_reducible apply (h.keeps_NewInst); done)); clear h; intro h) | (apply stepWith e1; (focus (with_reducible apply (h.keeps_NewStore); done)); clear h; intro h) | (apply stepWith e1; (focus (with_reducible apply (h.keeps_NewTerm); done)); clear h; intro h) | (apply stepWith e1; (focus (with_reducible apply (h.keeps_NewInstAt); done)); clear h; intro h) | (apply stepWith e1; (focus (with_reducible apply (h.keeps_NewStoreAt); done)); clear h; intro h) | (apply stepWith e1; (focus (with_reducible apply (h.keeps_NewTermAt); done)); clear h; intro h) | (apply stepWith e1; (focus (with_reducible apply (h.keeps_NewBlock); done)); clear h; intro h) | (apply stepWith e1; (focus (with_reducible apply (h.keeps_NewBlockIn); done)); clear h; intro h) | (apply stepWith e1; (focus (with_reducible apply ((ihv _ (by rfl)).keeps h); done)); clear h; intro h)
         | (cases e1)
         | (refine Keeps.keeps_cutFrom h (b := g1) ?_ ?_ <;>
             first | (intro h2; clear h e1; rename' h2 => h) | (clear e; rename' e1 => e))
         | fail)
    | (split at e <;>
       try (rename_i heq
            try (apply stepWith heq; (focus (with_reducible apply (h.keeps_inFunc); done)); intro i2)
            try (apply stepWith heq; (focus (with_reducible apply (h.keeps_curFunc); done)); intro i3)
            try (first | (apply stepWith heq; (focus (with_reducible apply (h.keeps_varStatementType); done)); clear h; intro h) | (apply stepWith heq; (focus (with_reducible apply (h.keeps_NewInst); done)); clear h; intro h) | (apply stepWith heq; (focus (with_reducible apply (h.keeps_NewStore); done)); clear h; intro h) | (apply stepWith heq; (focus (with_reducible apply (h.keeps_NewTerm); done)); clear h; intro h) | (apply stepWith heq; (focus (with_reducible apply (h.keeps_NewInstAt); done)); clear h; intro h) | (apply stepWith heq; (focus (with_reducible apply (h.keeps_NewStoreAt); done)); clear h; intro h) | (apply stepWith heq; (focus (with_reducible apply (h.keeps_NewTermAt); done)); clear h; intro h) | (apply stepWith heq; (focus (with_reducible apply (h.keeps_NewBlock); done)); clear h; intro h) | (apply stepWith heq; (focus (with_reducible apply (h.keeps_NewBlockIn); done)); clear h; intro h) | (apply stepWith heq; (focus (with_reducible apply ((ihv _ (by rfl)).keeps h); done)); clear h; intro h) | fail)))
    | (cases e; first | done | exact Keeps.keeps_less (Keeps.keeps_ext h) | fail)
    | (dsimp only at e)
    | fail)

theorem StmtKept.kept_returnStatement {returnValue : Option Expression} (ihv : ∀ v, returnValue = some v → ExprKept v) :
    StmtKept (.ReturnStatement returnValue) := by
  constructor
  intro a g x g' B r _ h e
  replace h : Keeps a x B := h.keeps_ext
  rw [generateStatement_return_eq] at e
  try simp only [IRGenerator.NewAlloca, IRGenerator.NewLoad, IRGenerator.NewBin, IRGenerator.NewICmp, IRGenerator.NewFCmp, IRGenerator.NewGetElementPtr, IRGenerator.funcValue, NewCall_func, IRGenerator.NewCall, IRGenerator.NewZExt, IRGenerator.NewSelect, IRGenerator.NewBr, IRGenerator.NewCondBr, IRGenerator.NewRet, IRGenerator.NewUnreachable, IRGenerator.NewFunc, IRGenerator.NewGlobalDef] at e
  repeat' (first
    | (first | (revert e; with_reducible apply (Keeps.keeps_less ∘ (h.keeps_asResult)); done) | (revert e; with_reducible apply (Keeps.keeps_less ∘ (h.keeps_failWith)); done) | (revert e; with_reducible apply (Keeps.keeps_less ∘ (h.keeps_NewInst)); done) | (revert e; with_reducible apply (Keeps.keeps_less ∘ (h.keeps_NewStore)); done) | (revert e; with_reducible apply (Keeps.keeps_less ∘ (h.keeps_NewTerm)); done) | (revert e; with_reducible apply (Keeps.keeps_less ∘ (h.keeps_NewInstAt)); done) | (revert e; with_reducible apply (Keeps.keeps_less ∘ (h.keeps_NewStoreAt)); done) | (revert e; with_reducible apply (Keeps.keeps_less ∘ (h.keeps_NewTermAt)); done) | (revert e; with_reducible apply (Keeps.keeps_less ∘ (h.keeps_NewBlock)); done) | (revert e; with_reducible apply (Keeps.keeps_less ∘ (h.keeps_NewBlockIn)); done) | (revert e; with_reducible apply (Keeps.keeps_less ∘ ((ihv _ (by rfl)).keeps h)); done) | fail)
    | (apply stepWith e; (focus (with_reducible apply (@ite_ok _ _ _ _ _ _); done)); intro e2
       clear e
       rcases e2 with ⟨hc, e⟩ | ⟨hc, e⟩ <;>
       try (apply stepWith hc; (focus (with_reducible apply (h.keeps_inFuncNot); done)); intro i1))
    | (simp only [bind_assoc, pure_bind] at e)
    | (rw [bind_ok] at e
       obtain ⟨⟨x1, g1⟩, e1, e⟩ := e
       try dsimp only at e
       try (apply stepWith e1; (focus (with_reducible apply (h.keeps_inFuncNew); done)); intro f0)
       try (apply stepWith e1; (focus (with_reducible apply (h.keeps_ownedNew); done)); intro f1)
       try (apply stepWith e1; (focus (with_reducible apply (ptrVal_of_NewInst); done)); intro f2)
       first
         | (apply stepWith e1; (focus (with_reducible apply (h.keeps_NewInst); done)); clear h; intro h) | (apply stepWith e1; (focus (with_reducible apply (h.keeps_NewStore); done)); clear h; intro h) | (apply stepWith e1; (focus (with_reducible apply (h.keeps_NewTerm); done)); clear h; intro h) | (apply stepWith e1; (focus (with_reducible apply (h.keeps_NewInstAt); done)); clear h; intro h) | (apply stepWith e1; (focus (with_reducible apply (h.keeps_NewStoreAt); done)); clear h; intro h) | (apply stepWith e1; (focus (with_reducible apply (h.keeps_NewTermAt); done)); clear h; intro h) | (apply stepWith e1; (focus (with_reducible apply (h.keeps_NewBlock); done)); clear h; intro h) | (apply stepWith e1; (focus (with_reducible apply (h.keeps_NewBlockIn); done)); clear h; intro h) | (apply stepWith e1; (focus (with_reducible apply ((ihv _ (by rfl)).keeps h); done)); clear h; intro h)
         | (cases e1)
         | (refine Keeps.keeps_cutFrom h (b := g1) ?_ ?_ <;>
             first | (intro h2; clear h e1; rename' h2 => h) | (clear e; rename' e1 => e))
         | fail)
    | (split at e <;>
       try (rename_i heq
            try (apply stepWith heq; (focus (with_reducible apply (h.keeps_inFunc); done)); intro i2)
            try (apply stepWith heq; (focus (with_reducible apply (h.keeps_curFunc); done)); intro i3)
            try (first | (apply stepWith heq; (focus (with_reducible apply (h.keeps_NewInst); done)); clear h; intro h) | (apply stepWith heq; (focus (with_reducible apply (h.keeps_NewStore); done)); clear h; intro h) | (apply stepWith heq; (focus (with_reducible apply (h.keeps_NewTerm); done)); clear h; intro h) | (apply stepWith heq; (focus (with_reducible apply (h.keeps_NewInstAt); done)); clear h; intro h) | (apply stepWith heq; (focus (with_reducible apply (h.keeps_NewStoreAt); done)); clear h; intro h) | (apply stepWith heq; (focus (with_reducible apply (h.keeps_NewTermAt); done)); clear h; intro h) | (apply stepWith heq; (focus (with_reducible apply (h.keeps_NewBlock); done)); clear h; intro h) | (apply stepWith heq; (focus (with_reducible apply (h.keeps_NewBlockIn); done)); clear h; intro h) | (apply stepWith heq; (focus (with_reducible apply ((ihv _ (by rfl)).keeps h); done)); clear h; intro h) | fail)))
    | (cases e; first | done | exact Keeps.keeps_less (Keeps.keeps_ext h) | fail)
    | (dsimp only at e)
    | fail)

theorem StmtKept.kept_block {statements : List Statement} (ih : ∀ s ∈ statements, StmtKept s) :
    StmtKept (.BlockStatement statements) := by
  constructor
  intro a g x g' B r _ h e
  replace h : Keeps a x B := h.keeps_ext
  rw [generateStatement_block_eq] at e
  try simp only [IRGenerator.NewAlloca, IRGenerator.NewLoad, IRGenerator.NewBin, IRGenerator.NewICmp, IRGenerator.NewFCmp, IRGenerator.NewGetElementPtr, IRGenerator.funcValue, NewCall_func, IRGenerator.NewCall, IRGenerator.NewZExt, IRGenerator.NewSelect, IRGenerator.NewBr, IRGenerator.NewCondBr, IRGenerator.NewRet, IRGenerator.NewUnreachable, IRGenerator.NewFunc, IRGenerator.NewGlobalDef] at e
  repeat' (first
    | (first | (revert e; with_reducible apply (Keeps.keeps_less ∘ (h.keeps_asResult)); done) | (revert e; with_reducible apply (Keeps.keeps_less ∘ (h.keeps_failWith)); done) | (revert e; with_reducible apply (Keeps.keeps_less ∘ (h.keeps_NewInst)); done) | (revert e; with_reducible apply (Keeps.keeps_less ∘ (h.keeps_NewStore)); done) | (revert e; with_reducible apply (Keeps.keeps_less ∘ (h.keeps_NewTerm)); done) | (revert e; with_reducible apply (Keeps.keeps_less ∘ (h.keeps_NewInstAt)); done) | (revert e; with_reducible apply (Keeps.keeps_less ∘ (h.keeps_NewStoreAt)); done) | (revert e; with_reducible apply (Keeps.keeps_less ∘ (h.keeps_NewTermAt)); done) | (revert e; with_reducible apply (Keeps.keeps_less ∘ (h.keeps_NewBlock)); done) | (revert e; with_reducible apply (Keeps.keeps_less ∘ (h.keeps_NewBlockIn)); done) | (revert e; with_reducible apply (Keeps.keeps_less ∘ (Keeps.keeps_generateBlockStatement ih h)); done) | fail)
    | (apply stepWith e; (focus (with_reducible apply (@ite_ok _ _ _ _ _ _); done)); intro e2
       clear e
       rcases e2 with ⟨hc, e⟩ | ⟨hc, e⟩ <;>
       try (apply stepWith hc; (focus (with_reducible apply (h.keeps_inFuncNot); done)); intro i1))
    | (simp only [bind_assoc, pure_bind] at e)
    | (rw [bind_ok] at e
       obtain ⟨⟨x1, g1⟩, e1, e⟩ := e
       try dsimp only at e
       try (apply stepWith e1; (focus (with_reducible apply (h.keeps_inFuncNew); done)); intro f0)
       try (apply stepWith e1; (focus (with_reducible apply (h.keeps_ownedNew); done)); intro f1)
       try (apply stepWith e1; (focus (with_reducible apply (ptrVal_of_NewInst); done)); intro f2)
       first
         | (apply stepWith e1; (focus (with_reducible apply (h.keeps_NewInst); done)); clear h; intro h) | (apply stepWith e1; (focus (with_reducible apply (h.keeps_NewStore); done)); clear h; intro h) | (apply stepWith e1; (focus (with_reducible apply (h.keeps_NewTerm); done)); clear h; intro h) | (apply stepWith e1; (focus (with_reducible apply (h.keeps_NewInstAt); done)); clear h; intro h) | (apply stepWith e1; (focus (with_reducible apply (h.keeps_NewStoreAt); done)); clear h; intro h) | (apply stepWith e1; (focus (with_reducible apply (h.keeps_NewTermAt); done)); clear h; intro h) | (apply stepWith e1; (focus (with_reducible apply (h.keeps_NewBlock); done)); clear h; intro h) | (apply stepWith e1; (focus (with_reducible apply (h.keeps_NewBlockIn); done)); clear h; intro h) | (apply stepWith e1; (focus (with_reducible apply (Keeps.keeps_generateBlockStatement ih h); done)); clear h; intro h)
         | (cases e1)
         | (refine Keeps.keeps_cutFrom h (b := g1) ?_ ?_ <;>
             first | (intro h2; clear h e1; rename' h2 => h) | (clear e; rename' e1 => e))
         | fail)
    | (split at e <;>
       try (rename_i heq
            try (apply stepWith heq; (focus (with_reducible apply (h.keeps_inFunc); done)); intro i2)
            try (apply stepWith heq; (focus (with_reducible apply (h.keeps_curFunc); done)); intro i3)
            try (first | (apply stepWith heq; (focus (with_reducible apply (h.keeps_NewInst); done)); clear h; intro h) | (apply stepWith heq; (focus (with_reducible apply (h.keeps_NewStore); done)); clear h; intro h) | (apply stepWith heq; (focus (with_reducible apply (h.keeps_NewTerm); done)); clear h; intro h) | (apply stepWith heq; (focus (with_reducible apply (h.keeps_NewInstAt); done)); clear h; intro h) | (apply stepWith heq; (focus (with_reducible apply (h.keeps_NewStoreAt); done)); clear h; intro h) | (apply stepWith heq; (focus (with_reducible apply (h.keeps_NewTermAt); done)); clear h; intro h) | (apply stepWith heq; (focus (with_reducible apply (h.keeps_NewBlock); done)); clear h; intro h) | (apply stepWith heq; (focus (with_reducible apply (h.keeps_NewBlockIn); done)); clear h; intro h) | (apply stepWith heq; (focus (with_reducible apply (Keeps.keeps_generateBlockStatement ih h); done)); clear h; intro h) | fail)))
    | (cases e; first | done | exact Keeps.keeps_less (Keeps.keeps_ext h) | fail)
    | (dsimp only at e)
    | fail)

theorem StmtKept.kept_whileStatement {condition : Expression} {body : Option (List Statement)} (ihc : ExprKept condition) (ihb : ∀ l, body = some l → ∀ s ∈ l, StmtKept s) :
    StmtKept (.WhileStatement condition body) := by
  constructor
  intro a g x g' B r _ h e
  replace h : Keeps a x B := h.keeps_ext
  rw [generateStatement_while_eq] at e
  try simp only [IRGenerator.NewAlloca, IRGenerator.NewLoad, IRGenerator.NewBin, IRGenerator.NewICmp, IRGenerator.NewFCmp, IRGenerator.NewGetElementPtr, IRGenerator.funcValue, NewCall_func, IRGenerator.NewCall, IRGenerator.NewZExt, IRGenerator.NewSelect, IRGenerator.NewBr, IRGenerator.NewCondBr, IRGenerator.NewRet, IRGenerator.NewUnreachable, IRGenerator.NewFunc, IRGenerator.NewGlobalDef] at e
  repeat' (first
    | (first | (revert e; with_reducible apply (Keeps.keeps_less ∘ (h.keeps_asResult)); done) | (revert e; with_reducible apply (Keeps.keeps_less ∘ (h.keeps_failWith)); done) | (revert e; with_reducible apply (Keeps.keeps_less ∘ (h.keeps_NewInst)); done) | (revert e; with_reducible apply (Keeps.keeps_less ∘ (h.keeps_NewStore)); done) | (revert e; with_reducible apply (Keeps.keeps_less ∘ (h.keeps_NewTerm)); done) | (revert e; with_reducible apply (Keeps.keeps_less ∘ (h.keeps_NewInstAt)); done) | (revert e; with_reducible apply (Keeps.keeps_less ∘ (h.keeps_NewStoreAt)); done) | (revert e; with_reducible apply (Keeps.keeps_less ∘ (h.keeps_NewTermAt)); done) | (revert e; with_reducible apply (Keeps.keeps_less ∘ (h.keeps_NewBlock)); done) | (revert e; with_reducible apply (Keeps.keeps_less ∘ (h.keeps_NewBlockIn)); done) | (revert e; with_reducible apply (Keeps.keeps_less ∘ (ihc.keeps h)); done) | (revert e; with_reducible apply (Keeps.keeps_less ∘ (Keeps.keeps_generateBlockStatement (ihb _ (by rfl)) h)); done) | (revert e; with_reducible apply (Keeps.keeps_less ∘ (h.keeps_brIfOpen)); done) | fail)
    | (apply stepWith e; (focus (with_reducible apply (@ite_ok _ _ _ _ _ _); done)); intro e2
       clear e
       rcases e2 with ⟨hc, e⟩ | ⟨hc, e⟩ <;>
       try (apply stepWith hc; (focus (with_reducible apply (h.keeps_inFuncNot); done)); intro i1))
    | (simp only [bind_assoc, pure_bind] at e)
    | (rw [bind_ok] at e
       obtain ⟨⟨x1, g1⟩, e1, e⟩ := e
       try dsimp only at e
       try (apply stepWith e1; (focus (with_reducible apply (h.keeps_inFuncNew); done)); intro f0)
       try (apply stepWith e1; (focus (with_reducible apply (h.keeps_ownedNew); done)); intro f1)
       try (apply stepWith e1; (focus (with_reducible apply (ptrVal_of_NewInst); done)); intro f2)
       first
         | (apply stepWith e1; (focus (with_reducible apply (h.keeps_NewInst); done)); clear h; intro h) | (apply stepWith e1; (focus (with_reducible apply (h.keeps_NewStore); done)); clear h; intro h) | (apply stepWith e1; (focus (with_reducible apply (h.keeps_NewTerm); done)); clear h; intro h) | (apply stepWith e1; (focus (with_reducible apply (h.keeps_NewInstAt); done)); clear h; intro h) | (apply stepWith e1; (focus (with_reducible apply (h.keeps_NewStoreAt); done)); clear h; intro h) | (apply stepWith e1; (focus (with_reducible apply (h.keeps_NewTermAt); done)); clear h; intro h) | (apply stepWith e1; (focus (with_reducible apply (h.keeps_NewBlock); done)); clear h; intro h) | (apply stepWith e1; (focus (with_reducible apply (h.keeps_NewBlockIn); done)); clear h; intro h) | (apply stepWith e1; (focus (with_reducible apply (ihc.keeps h); done)); clear h; intro h) | (apply stepWith e1; (focus (with_reducible apply (Keeps.keeps_generateBlockStatement (ihb _ (by rfl)) h); done)); clear h; intro h) | (apply stepWith e1; (focus (with_reducible apply (h.keeps_brIfOpen); done)); clear h; intro h)
         | (cases e1)
         | (refine Keeps.keeps_cutFrom h (b := g1) ?_ ?_ <;>
             first | (intro h2; clear h e1; rename' h2 => h) | (clear e; rename' e1 => e))
         | fail)
    | (split at e <;>
       try (rename_i heq
            try (apply stepWith heq; (focus (with_reducible apply (h.keeps_inFunc); done)); intro i2)
            try (apply stepWith heq; (focus (with_reducible apply (h.keeps_curFunc); done)); intro i3)
            try (first | (apply stepWith heq; (focus (with_reducible apply (h.keeps_NewInst); done)); clear h; intro h) | (apply stepWith heq; (focus (with_reducible apply (h.keeps_NewStore); done)); clear h; intro h) | (apply stepWith heq; (focus (with_reducible apply (h.keeps_NewTerm); done)); clear h; intro h) | (apply stepWith heq; (focus (with_reducible apply (h.keeps_NewInstAt); done)); clear h; intro h) | (apply stepWith heq; (focus (with_reducible apply (h.keeps_NewStoreAt); done)); clear h; intro h) | (apply stepWith heq; (focus (with_reducible apply (h.keeps_NewTermAt); done)); clear h; intro h) | (apply stepWith heq; (focus (with_reducible apply (h.keeps_NewBlock); done)); clear h; intro h) | (apply stepWith heq; (focus (with_reducible apply (h.keeps_NewBlockIn); done)); clear h; intro h) | (apply stepWith heq; (focus (with_reducible apply (ihc.keeps h); done)); clear h; intro h) | (apply stepWith heq; (focus (with_reducible apply (Keeps.keeps_generateBlockStatement (ihb _ (by rfl)) h); done)); clear h; intro h) | (apply stepWith heq; (focus (with_reducible apply (h.keeps_brIfOpen); done)); clear h; intro h) | fail)))
    | (cases e; first | done | exact Keeps.keeps_less (Keeps.keeps_ext h) | fail)
    | (dsimp only at e)
    | fail)

set_option maxHeartbeats 1600000 in
theorem StmtKept.kept_forStatement {init : Option Statement} {condition : Option Expression}
    {post : Option Statement} {body : Option (List Statement)} (ihi : ∀ s, init = some s → StmtKept s)
    (ihc : ∀ c, condition = some c → ExprKept c) (ihp : ∀ s, post = some s → StmtKept s)
    (ihb : ∀ l, body = some l → ∀ s ∈ l, StmtKept s) :
    StmtKept (.ForStatement init condition post body) := by
  constructor
  intro a g x g' B r _ h e
  replace h : Keeps a x B := h.keeps_ext
  rw [generateStatement_for_eq] at e
  try simp only [IRGenerator.NewAlloca, IRGenerator.NewLoad, IRGenerator.NewBin, IRGenerator.NewICmp, IRGenerator.NewFCmp, IRGenerator.NewGetElementPtr, IRGenerator.funcValue, NewCall_func, IRGenerator.NewCall, IRGenerator.NewZExt, IRGenerator.NewSelect, IRGenerator.NewBr, IRGenerator.NewCondBr, IRGenerator.NewRet, IRGenerator.NewUnreachable, IRGenerator.NewFunc, IRGenerator.NewGlobalDef] at e
  repeat' (first
    | (first | (revert e; with_reducible apply (Keeps.keeps_less ∘ (h.keeps_asResult)); done) | (revert e; with_reducible apply (Keeps.keeps_less ∘ (h.keeps_failWith)); done) | (revert e; with_reducible apply (Keeps.keeps_less ∘ (h.keeps_NewInst)); done) | (revert e; with_reducible apply (Keeps.keeps_less ∘ (h.keeps_NewStore)); done) | (revert e; with_reducible apply (Keeps.keeps_less ∘ (h.keeps_NewTerm)); done) | (revert e; with_reducible apply (Keeps.keeps_less ∘ (h.keeps_NewInstAt)); done) | (revert e; with_reducible apply (Keeps.keeps_less ∘ (h.keeps_NewStoreAt)); done) | (revert e; with_reducible apply (Keeps.keeps_less ∘ (h.keeps_NewTermAt)); done) | (revert e; with_reducible apply (Keeps.keeps_less ∘ (h.keeps_NewBlock)); done) | (revert e; with_reducible apply (Keeps.keeps_less ∘ (h.keeps_NewBlockIn)); done) | (revert e; with_reducible apply (Keeps.keeps_less ∘ ((ihi _ (by rfl)).keeps h)); done) | (revert e; with_reducible apply (Keeps.keeps_less ∘ ((ihc _ (by rfl)).keeps h)); done) | (revert e; with_reducible apply (Keeps.keeps_less ∘ ((ihp _ (by rfl)).keeps h)); done) | (revert e; with_reducible apply (Keeps.keeps_less ∘ (Keeps.keeps_generateBlockStatement (ihb _ (by rfl)) h)); done) | (revert e; with_reducible apply (Keeps.keeps_less ∘ (h.keeps_brIfOpen)); done) | fail)
    | (apply stepWith e; (focus (with_reducible apply (@ite_ok _ _ _ _ _ _); done)); intro e2
       clear e
       rcases e2 with ⟨hc, e⟩ | ⟨hc, e⟩ <;>
       try (apply stepWith hc; (focus (with_reducible apply (h.keeps_inFuncNot); done)); intro i1))
    | (simp only [bind_assoc, pure_bind] at e)
    | (rw [bind_ok] at e
       obtain ⟨⟨x1, g1⟩, e1, e⟩ := e
       try dsimp only at e
       try (apply stepWith e1; (focus (with_reducible apply (h.keeps_inFuncNew); done)); intro f0)
       try (apply stepWith e1; (focus (with_reducible apply (h.keeps_ownedNew); done)); intro f1)
       try (apply stepWith e1; (focus (with_reducible apply (ptrVal_of_NewInst); done)); intro f2)
       first
         | (apply stepWith e1; (focus (with_reducible apply (h.keeps_NewInst); done)); clear h; intro h) | (apply stepWith e1; (focus (with_reducible apply (h.keeps_NewStore); done)); clear h; intro h) | (apply stepWith e1; (focus (with_reducible apply (h.keeps_NewTerm); done)); clear h; intro h) | (apply stepWith e1; (focus (with_reducible apply (h.keeps_NewInstAt); done)); clear h; intro h) | (apply stepWith e1; (focus (with_reducible apply (h.keeps_NewStoreAt); done)); clear h; intro h) | (apply stepWith e1; (focus (with_reducible apply (h.keeps_NewTermAt); done)); clear h; intro h) | (apply stepWith e1; (focus (with_reducible apply (h.keeps_NewBlock); done)); clear h; intro h) | (apply stepWith e1; (focus (with_reducible apply (h.keeps_NewBlockIn); done)); clear h; intro h) | (apply stepWith e1; (focus (with_reducible apply ((ihi _ (by rfl)).keeps h); done)); clear h; intro h) | (apply stepWith e1; (focus (with_reducible apply ((ihc _ (by rfl)).keeps h); done)); clear h; intro h) | (apply stepWith e1; (focus (with_reducible apply ((ihp _ (by rfl)).keeps h); done)); clear h; intro h) | (apply stepWith e1; (focus (with_reducible apply (Keeps.keeps_generateBlockStatement (ihb _ (by rfl)) h); done)); clear h; intro h) | (apply stepWith e1; (focus (with_reducible apply (h.keeps_brIfOpen); done)); clear h; intro h)
         | (cases e1)
         | (refine Keeps.keeps_cutFrom h (b := g1) ?_ ?_ <;>
             first | (intro h2; clear h e1; rename' h2 => h) | (clear e; rename' e1 => e))
         | fail)
    | (split at e <;>
       try (rename_i heq
            try (apply stepWith heq; (focus (with_reducible apply (h.keeps_inFunc); done)); intro i2)
            try (apply stepWith heq; (focus (with_reducible apply (h.keeps_curFunc); done)); intro i3)
            try (first | (apply stepWith heq; (focus (with_reducible apply (h.keeps_NewInst); done)); clear h; intro h) | (apply stepWith heq; (focus (with_reducible apply (h.keeps_NewStore); done)); clear h; intro h) | (apply stepWith heq; (focus (with_reducible apply (h.keeps_NewTerm); done)); clear h; intro h) | (apply stepWith heq; (focus (with_reducible apply (h.keeps_NewInstAt); done)); clear h; intro h) | (apply stepWith heq; (focus (with_reducible apply (h.keeps_NewStoreAt); done)); clear h; intro h) | (apply stepWith heq; (focus (with_reducible apply (h.keeps_NewTermAt); done)); clear h; intro h) | (apply stepWith heq; (focus (with_reducible apply (h.keeps_NewBlock); done)); clear h; intro h) | (apply stepWith heq; (focus (with_reducible apply (h.keeps_NewBlockIn); done)); clear h; intro h) | (apply stepWith heq; (focus (with_reducible apply ((ihi _ (by rfl)).keeps h); done)); clear h; intro h) | (apply stepWith heq; (focus (with_reducible apply ((ihc _ (by rfl)).keeps h); done)); clear h; intro h) | (apply stepWith heq; (focus (with_reducible apply ((ihp _ (by rfl)).keeps h); done)); clear h; intro h) | (apply stepWith heq; (focus (with_reducible apply (Keeps.keeps_generateBlockStatement (ihb _ (by rfl)) h); done)); clear h; intro h) | (apply stepWith heq; (focus (with_reducible apply (h.keeps_brIfOpen); done)); clear h; intro h) | fail)))
    | (cases e; first | done | exact Keeps.keeps_less (Keeps.keeps_ext h) | fail)
    | (dsimp only at e)
    | fail)

set_option maxHeartbeats 1600000 in
theorem StmtKept.kept_switchStatement {tag : Option Expression} {cases : List CaseClause} (iht : ∀ t, tag = some t → ExprKept t)
    (ihv : ∀ c ∈ cases, ∀ e ∈ c.values, ExprKept e) (ihb : ∀ c ∈ cases, ∀ s ∈ c.body, StmtKept s) :
    StmtKept (.SwitchStatement tag cases) := by
  constructor
  intro a g x g' B r _ h e
  replace h : Keeps a x B := h.keeps_ext
  rw [generateStatement_switch_eq] at e
  try simp only [IRGenerator.NewAlloca, IRGenerator.NewLoad, IRGenerator.NewBin, IRGenerator.NewICmp, IRGenerator.NewFCmp, IRGenerator.NewGetElementPtr, IRGenerator.funcValue, NewCall_func, IRGenerator.NewCall, IRGenerator.NewZExt, IRGenerator.NewSelect, IRGenerator.NewBr, IRGenerator.NewCondBr, IRGenerator.NewRet, IRGenerator.NewUnreachable, IRGenerator.NewFunc, IRGenerator.NewGlobalDef] at e
  repeat' (first
    | (first | (revert e; with_reducible apply (Keeps.keeps_less ∘ (h.keeps_asResult)); done) | (revert e; with_reducible apply (Keeps.keeps_less ∘ (h.keeps_failWith)); done) | (revert e; with_reducible apply (Keeps.keeps_less ∘ (h.keeps_NewInst)); done) | (revert e; with_reducible apply (Keeps.keeps_less ∘ (h.keeps_NewStore)); done) | (revert e; with_reducible apply (Keeps.keeps_less ∘ (h.keeps_NewTerm)); done) | (revert e; with_reducible apply (Keeps.keeps_less ∘ (h.keeps_NewInstAt)); done) | (revert e; with_reducible apply (Keeps.keeps_less ∘ (h.keeps_NewStoreAt)); done) | (revert e; with_reducible apply (Keeps.keeps_less ∘ (h.keeps_NewTermAt)); done) | (revert e; with_reducible apply (Keeps.keeps_less ∘ (h.keeps_NewBlock)); done) | (revert e; with_reducible apply (Keeps.keeps_less ∘ (h.keeps_NewBlockIn)); done) | (revert e; with_reducible apply (Keeps.keeps_less ∘ ((iht _ (by rfl)).keeps h)); done) | (revert e; with_reducible apply (Keeps.keeps_less ∘ (h.keeps_newCaseBlocks)); done) | (revert e; with_reducible apply (Keeps.keeps_less ∘ (Keeps.keeps_taggedSwitchCases ihv h)); done) | (revert e; with_reducible apply (Keeps.keeps_less ∘ (Keeps.keeps_booleanSwitchCases ihv h)); done) | with_reducible exact Keeps.keeps_less (switchBodies_keeps cases ihb _ _ _ _ _ _ _ _ f4 f3 h.keeps_ext e) | fail)
    | (apply stepWith e; (focus (with_reducible apply (@ite_ok _ _ _ _ _ _); done)); intro e2
       clear e
       rcases e2 with ⟨hc, e⟩ | ⟨hc, e⟩ <;>
       try (apply stepWith hc; (focus (with_reducible apply (h.keeps_inFuncNot); done)); intro i1))
    | (simp only [bind_assoc, pure_bind] at e)
    | (rw [bind_ok] at e
       obtain ⟨⟨x1, g1⟩, e1, e⟩ := e
       try dsimp only at e
       try (apply stepWith e1; (focus (with_reducible apply (h.keeps_inFuncNew); done)); intro f0)
       try (apply stepWith e1; (focus (with_reducible apply (h.keeps_ownedNew); done)); intro f1)
       try (apply stepWith e1; (focus (with_reducible apply (ptrVal_of_NewInst); done)); intro f2)
       try (with_reducible have f3 := h.keeps_caseBlocksOwned e1)
       try (with_reducible have f4 := newCaseBlocks_inRange e1)
       try (apply stepWith e1; (focus (with_reducible apply (h.keeps_ownedResult ∘ (taggedSwitchCases_result _ _ _ _ _ _ _ _)); done)); intro f5)
       try (apply stepWith e1; (focus (with_reducible apply (h.keeps_ownedResult ∘ (booleanSwitchCases_result _ _ _ _ _ _ _)); done)); intro f6)
       first
         | (apply stepWith e1; (focus (with_reducible apply (h.keeps_NewInst); done)); clear h; intro h; try (with_reducible have c0 := (h.keeps_ownedCursor : OwnedOpt a g1.currentBB))) | (apply stepWith e1; (focus (with_reducible apply (h.keeps_NewStore); done)); clear h; intro h; try (with_reducible have c0 := (h.keeps_ownedCursor : OwnedOpt a g1.currentBB))) | (apply stepWith e1; (focus (with_reducible apply (h.keeps_NewTerm); done)); clear h; intro h; try (with_reducible have c0 := (h.keeps_ownedCursor : OwnedOpt a g1.currentBB))) | (apply stepWith e1; (focus (with_reducible apply (h.keeps_NewInstAt); done)); clear h; intro h; try (with_reducible have c0 := (h.keeps_ownedCursor : OwnedOpt a g1.currentBB))) | (apply stepWith e1; (focus (with_reducible apply (h.keeps_NewStoreAt); done)); clear h; intro h; try (with_reducible have c0 := (h.keeps_ownedCursor : OwnedOpt a g1.currentBB))) | (apply stepWith e1; (focus (with_reducible apply (h.keeps_NewTermAt); done)); clear h; intro h; try (with_reducible have c0 := (h.keeps_ownedCursor : OwnedOpt a g1.currentBB))) | (apply stepWith e1; (focus (with_reducible apply (h.keeps_NewBlock); done)); clear h; intro h; try (with_reducible have c0 := (h.keeps_ownedCursor : OwnedOpt a g1.currentBB))) | (apply stepWith e1; (focus (with_reducible apply (h.keeps_NewBlockIn); done)); clear h; intro h; try (with_reducible have c0 := (h.keeps_ownedCursor : OwnedOpt a g1.currentBB))) | (apply stepWith e1; (focus (with_reducible apply ((iht _ (by rfl)).keeps h); done)); clear h; intro h; try (with_reducible have c0 := (h.keeps_ownedCursor : OwnedOpt a g1.currentBB))) | (apply stepWith e1; (focus (with_reducible apply (h.keeps_newCaseBlocks); done)); clear h; intro h; try (with_reducible have c0 := (h.keeps_ownedCursor : OwnedOpt a g1.currentBB))) | (apply stepWith e1; (focus (with_reducible apply (Keeps.keeps_taggedSwitchCases ihv h); done)); clear h; intro h; try (with_reducible have c0 := (h.keeps_ownedCursor : OwnedOpt a g1.currentBB))) | (apply stepWith e1; (focus (with_reducible apply (Keeps.keeps_booleanSwitchCases ihv h); done)); clear h; intro h; try (with_reducible have c0 := (h.keeps_ownedCursor : OwnedOpt a g1.currentBB))) | (with_reducible replace h := switchBodies_keeps cases ihb _ _ _ _ _ _ _ _ f4 f3 h.keeps_ext e1; try (with_reducible have c0 := (h.keeps_ownedCursor : OwnedOpt a g1.currentBB)))
         | (cases e1)
         | (refine Keeps.keeps_cutFrom h (b := g1) ?_ ?_ <;>
             first | (intro h2; clear h e1; rename' h2 => h) | (clear e; rename' e1 => e))
         | fail)
    | (split at e <;>
       try (rename_i heq
            try (apply stepWith heq; (focus (with_reducible apply (h.keeps_inFunc); done)); intro i2)
            try (apply stepWith heq; (focus (with_reducible apply (h.keeps_curFunc); done)); intro i3)
            try (first | (apply stepWith heq; (focus (with_reducible apply (h.keeps_NewInst); done)); clear h; intro h) | (apply stepWith heq; (focus (with_reducible apply (h.keeps_NewStore); done)); clear h; intro h) | (apply stepWith heq; (focus (with_reducible apply (h.keeps_NewTerm); done)); clear h; intro h) | (apply stepWith heq; (focus (with_reducible apply (h.keeps_NewInstAt); done)); clear h; intro h) | (apply stepWith heq; (focus (with_reducible apply (h.keeps_NewStoreAt); done)); clear h; intro h) | (apply stepWith heq; (focus (with_reducible apply (h.keeps_NewTermAt); done)); clear h; intro h) | (apply stepWith heq; (focus (with_reducible apply (h.keeps_NewBlock); done)); clear h; intro h) | (apply stepWith heq; (focus (with_reducible apply (h.keeps_NewBlockIn); done)); clear h; intro h) | (apply stepWith heq; (focus (with_reducible apply ((iht _ (by rfl)).keeps h); done)); clear h; intro h) | (apply stepWith heq; (focus (with_reducible apply (h.keeps_newCaseBlocks); done)); clear h; intro h) | (apply stepWith heq; (focus (with_reducible apply (Keeps.keeps_taggedSwitchCases ihv h); done)); clear h; intro h) | (apply stepWith heq; (focus (with_reducible apply (Keeps.keeps_booleanSwitchCases ihv h); done)); clear h; intro h) | (with_reducible replace h := switchBodies_keeps cases ihb _ _ _ _ _ _ _ _ f4 f3 h.keeps_ext heq) | fail)))
    | (cases e; first | done | exact Keeps.keeps_less (Keeps.keeps_ext h) | fail)
    | (dsimp only at e)
    | fail)

theorem StmtKept.kept_otherStatement (t : String) :
    StmtKept (.Other t) := by
  constructor
  intro a g x g' B r _ h e
  replace h : Keeps a x B := h.keeps_ext
  rw [generateStatement_other_eq] at e
  try simp only [IRGenerator.NewAlloca, IRGenerator.NewLoad, IRGenerator.NewBin, IRGenerator.NewICmp, IRGenerator.NewFCmp, IRGenerator.NewGetElementPtr, IRGenerator.funcValue, NewCall_func, IRGenerator.NewCall, IRGenerator.NewZExt, IRGenerator.NewSelect, IRGenerator.NewBr, IRGenerator.NewCondBr, IRGenerator.NewRet, IRGenerator.NewUnreachable, IRGenerator.NewFunc, IRGenerator.NewGlobalDef] at e
  repeat' (first
    | (first | (revert e; with_reducible apply (Keeps.keeps_less ∘ (h.keeps_asResult)); done) | (revert e; with_reducible apply (Keeps.keeps_less ∘ (h.keeps_failWith)); done) | (revert e; with_reducible apply (Keeps.keeps_less ∘ (h.keeps_NewInst)); done) | (revert e; with_reducible apply (Keeps.keeps_less ∘ (h.keeps_NewStore)); done) | (revert e; with_reducible apply (Keeps.keeps_less ∘ (h.keeps_NewTerm)); done) | (revert e; with_reducible apply (Keeps.keeps_less ∘ (h.keeps_NewInstAt)); done) | (revert e; with_reducible apply (Keeps.keeps_less ∘ (h.keeps_NewStoreAt)); done) | (revert e; with_reducible apply (Keeps.keeps_less ∘ (h.keeps_NewTermAt)); done) | (revert e; with_reducible apply (Keeps.keeps_less ∘ (h.keeps_NewBlock)); done) | (revert e; with_reducible apply (Keeps.keeps_less ∘ (h.keeps_NewBlockIn)); done) | fail)
    | (apply stepWith e; (focus (with_reducible apply (@ite_ok _ _ _ _ _ _); done)); intro e2
       clear e
       rcases e2 with ⟨hc, e⟩ | ⟨hc, e⟩ <;>
       try (apply stepWith hc; (focus (with_reducible apply (h.keeps_inFuncNot); done)); intro i1))
    | (simp only [bind_assoc, pure_bind] at e)
    | (rw [bind_ok] at e
       obtain ⟨⟨x1, g1⟩, e1, e⟩ := e
       try dsimp only at e
       try (apply stepWith e1; (focus (with_reducible apply (h.keeps_inFuncNew); done)); intro f0)
       try (apply stepWith e1; (focus (with_reducible apply (h.keeps_ownedNew); done)); intro f1)
       try (apply stepWith e1; (focus (with_reducible apply (ptrVal_of_NewInst); done)); intro f2)
       first
         | (apply stepWith e1; (focus (with_reducible apply (h.keeps_NewInst); done)); clear h; intro h) | (apply stepWith e1; (focus (with_reducible apply (h.keeps_NewStore); done)); clear h; intro h) | (apply stepWith e1; (focus (with_reducible apply (h.keeps_NewTerm); done)); clear h; intro h) | (apply stepWith e1; (focus (with_reducible apply (h.keeps_NewInstAt); done)); clear h; intro h) | (apply stepWith e1; (focus (with_reducible apply (h.keeps_NewStoreAt); done)); clear h; intro h) | (apply stepWith e1; (focus (with_reducible apply (h.keeps_NewTermAt); done)); clear h; intro h) | (apply stepWith e1; (focus (with_reducible apply (h.keeps_NewBlock); done)); clear h; intro h) | (apply stepWith e1; (focus (with_reducible apply (h.keeps_NewBlockIn); done)); clear h; intro h)
         | (cases e1)
         | (refine Keeps.keeps_cutFrom h (b := g1) ?_ ?_ <;>
             first | (intro h2; clear h e1; rename' h2 => h) | (clear e; rename' e1 => e))
         | fail)
    | (split at e <;>
       try (rename_i heq
            try (apply stepWith heq; (focus (with_reducible apply (h.keeps_inFunc); done)); intro i2)
            try (apply stepWith heq; (focus (with_reducible apply (h.keeps_curFunc); done)); intro i3)
            try (first | (apply stepWith heq; (focus (with_reducible apply (h.keeps_NewInst); done)); clear h; intro h) | (apply stepWith heq; (focus (with_reducible apply (h.keeps_NewStore); done)); clear h; intro h) | (apply stepWith heq; (focus (with_reducible apply (h.keeps_NewTerm); done)); clear h; intro h) | (apply stepWith heq; (focus (with_reducible apply (h.keeps_NewInstAt); done)); clear h; intro h) | (apply stepWith heq; (focus (with_reducible apply (h.keeps_NewStoreAt); done)); clear h; intro h) | (apply stepWith heq; (focus (with_reducible apply (h.keeps_NewTermAt); done)); clear h; intro h) | (apply stepWith heq; (focus (with_reducible apply (h.keeps_NewBlock); done)); clear h; intro h) | (apply stepWith heq; (focus (with_reducible apply (h.keeps_NewBlockIn); done)); clear h; intro h) | fail)))
    | (cases e; first | done | exact Keeps.keeps_less (Keeps.keeps_ext h) | fail)
    | (dsimp only at e)
    | fail)

theorem ExprKept.kept_functionLiteral (parameters : List String) {body : Option (List Statement)}
    (ihb : ∀ l, body = some l → ∀ s ∈ l, StmtKept s) :
    ExprKept (.FunctionLiteral parameters body) := by
  constructor
  intro a g x g' B r _ h e
  replace h : Keeps a x B := h.keeps_ext
  rw [generateExpression_functionLiteral_eq] at e
  dsimp only [IRGenerator.NewFunc] at e
  generalize hy0 : parameters.foldl (fun g _ => g.appendParam x.nfuncs ⟨"", .I32⟩)
    (x.addFunc "anonymous_func" .I32 []) = y0 at e
  have hk0 : Keeps a y0 B := by
    rw [← hy0]
    exact h.keeps_ext
  rw [bind_ok] at e
  obtain ⟨⟨entry, y2⟩, e1, e⟩ := e
  simp only [NewBlock_some, Except.ok.injEq, Prod.mk.injEq] at e1
  obtain ⟨rfl, rfl⟩ := e1
  dsimp only at e
  generalize hy3 : ((y0.setCurrentFunc (some x.nfuncs)).addBlock x.nfuncs "entry").setCurrentBB
    (some (y0.setCurrentFunc (some x.nfuncs)).nblocks) = y3 at e
  have h3n : y0.nblocks ≤ y3.nblocks := by
    rw [← hy3]
    exact Nat.le_succ _
  have h3b : y3.currentBB = some y0.nblocks := by
    rw [← hy3]
    rfl
  have h3s : y3.symbolTable = y0.symbolTable := by
    rw [← hy3]
    rfl
  have h3blocks : ∀ c, c < y0.nblocks → y3.blocks c = y0.blocks c := by
    intro c hc
    rw [← hy3]
    have : c ≠ y0.nblocks := Nat.ne_of_lt hc
    simp [update, this]
  have hfn : a.nfuncs ≤ x.nfuncs := h.functions.nfuncs
  have h3f : y3.currentFunc = some x.nfuncs := by
    rw [← hy3]
    rfl
  have h3nf : y0.nfuncs ≤ y3.nfuncs := by
    rw [← hy3]
    exact Nat.le_refl _
  have h3funcs : ∀ f, f ≠ x.nfuncs → y3.funcs f = y0.funcs f := by
    intro f hf
    rw [← hy3]
    simp [IRGenerator.addBlock, update, hf]
  have h3m : y3.module.funcs = y0.module.funcs := by
    rw [← hy3]
    rfl
  have h3l : y3.lazyDeclared = y0.lazyDeclared := by
    rw [← hy3]
    rfl
  have h3v : x.nfuncs < y3.nfuncs := by
    rw [← hy3]
    show x.nfuncs < y0.nfuncs
    rw [← hy0, foldlAppendParam_nfuncs]
    exact Nat.lt_succ_self _
  have h0l : (∀ d, a.currentFunc = some d → d < a.nfuncs) →
      ∀ p ∈ y0.lazyDeclared, p ∈ a.lazyDeclared ∨ p.2 < x.nfuncs := by
    intro hv p hp
    rw [← hy0, foldlAppendParam_lazyDeclared] at hp
    exact (h.functions.declared hv p hp).imp id fun k => k.2.1
  have o3 : Owned y3 (y0.setCurrentFunc (some x.nfuncs)).nblocks := ⟨Or.inl h3b⟩
  have inner : Keeps y3 y3 [] := Keeps.keeps_refl y3
  rw [bind_ok] at e
  obtain ⟨⟨u2, y4⟩, e2, e⟩ := e
  replace inner := inner.keeps_bindLiteralParameters e2
  cases body with
  | none =>
    dsimp only at e
    rw [bind_ok] at e
    obtain ⟨⟨u3, y5⟩, e3, e⟩ := e
    cases e3
    rw [bind_ok] at e
    obtain ⟨⟨u4, y6⟩, e4, e⟩ := e
    replace inner := inner.keeps_implicitReturn e4
    cases e
    exact hk0.keeps_restore inner h3n h3b h3s h3blocks hfn h3f h3nf h3funcs h3m h3l h3v h0l
  | some stmts =>
    dsimp only at e
    rw [bind_ok] at e
    obtain ⟨⟨u3, y5⟩, e3, e⟩ := e
    replace inner := Keeps.keeps_generateBlockStatement (ihb _ rfl) inner e3
    rw [bind_ok] at e
    obtain ⟨⟨u4, y6⟩, e4, e⟩ := e
    replace inner := inner.keeps_implicitReturn e4
    cases e
    exact hk0.keeps_restore inner h3n h3b h3s h3blocks hfn h3f h3nf h3funcs h3m h3l h3v h0l

theorem StmtKept.kept_functionStatement (funcName : String) (parameters : List String)
    (returnType : Option Expression) {body : Option (List Statement)}
    (ihb : ∀ l, body = some l → ∀ s ∈ l, StmtKept s) :
    StmtKept (.FunctionStatement funcName parameters returnType body) := by
  constructor
  intro a g x g' B r _ h e
  replace h : Keeps a x B := h.keeps_ext
  rw [generateStatement_function_eq] at e
  rcases hfr : functionReturnType returnType x with ⟨retTy, g0⟩
  rw [hfr] at e
  have h0 : Keeps a g0 B := h.keeps_functionReturnType hfr
  dsimp only [IRGenerator.NewFunc] at e
  generalize hy0 : appendParams parameters g0.nfuncs (g0.addFunc funcName retTy []) = y0 at e
  have hk0 : Keeps a y0 B := by
    rw [← hy0]
    exact h0.keeps_ext
  rw [bind_ok] at e
  obtain ⟨⟨entry, y2⟩, e1, e⟩ := e
  simp only [NewBlock_some, Except.ok.injEq, Prod.mk.injEq] at e1
  obtain ⟨rfl, rfl⟩ := e1
  dsimp only at e
  generalize hy3 : ((y0.setCurrentFunc (some g0.nfuncs)).addBlock g0.nfuncs "entry").setCurrentBB
    (some (y0.setCurrentFunc (some g0.nfuncs)).nblocks) = y3 at e
  have h3n : y0.nblocks ≤ y3.nblocks := by
    rw [← hy3]
    exact Nat.le_succ _
  have h3b : y3.currentBB = some y0.nblocks := by
    rw [← hy3]
    rfl
  have h3s : y3.symbolTable = y0.symbolTable := by
    rw [← hy3]
    rfl
  have h3blocks : ∀ c, c < y0.nblocks → y3.blocks c = y0.blocks c := by
    intro c hc
    rw [← hy3]
    have : c ≠ y0.nblocks := Nat.ne_of_lt hc
    simp [update, this]
  have hfn : a.nfuncs ≤ g0.nfuncs := h0.functions.nfuncs
  have h3f : y3.currentFunc = some g0.nfuncs := by
    rw [← hy3]
    rfl
  have h3nf : y0.nfuncs ≤ y3.nfuncs := by
    rw [← hy3]
    exact Nat.le_refl _
  have h3funcs : ∀ f, f ≠ g0.nfuncs → y3.funcs f = y0.funcs f := by
    intro f hf
    rw [← hy3]
    simp [IRGenerator.addBlock, update, hf]
  have h3m : y3.module.funcs = y0.module.funcs := by
    rw [← hy3]
    rfl
  have h3l : y3.lazyDeclared = y0.lazyDeclared := by
    rw [← hy3]
    rfl
  have h3v : g0.nfuncs < y3.nfuncs := by
    rw [← hy3]
    show g0.nfuncs < y0.nfuncs
    rw [← hy0, appendParams_nfuncs]
    exact Nat.lt_succ_self _
  have h0l : (∀ d, a.currentFunc = some d → d < a.nfuncs) →
      ∀ p ∈ y0.lazyDeclared, p ∈ a.lazyDeclared ∨ p.2 < g0.nfuncs := by
    intro hv p hp
    rw [← hy0, appendParams_lazyDeclared] at hp
    exact (h0.functions.declared hv p hp).imp id fun k => k.2.1
  have o3 : Owned y3 (y0.setCurrentFunc (some g0.nfuncs)).nblocks := ⟨Or.inl h3b⟩
  have inner : Keeps y3 y3 [] := Keeps.keeps_refl y3
  rw [bind_ok] at e
  obtain ⟨⟨u2, y4⟩, e2, e⟩ := e
  replace inner := inner.keeps_bindParameters e2
  cases body with
  | none =>
    dsimp only at e
    rw [bind_ok] at e
    obtain ⟨⟨u3, y5⟩, e3, e⟩ := e
    cases e3
    rw [bind_ok] at e
    obtain ⟨⟨u4, y6⟩, e4, e⟩ := e
    replace inner := inner.keeps_implicitReturn e4
    cases e
    exact (hk0.keeps_restore inner h3n h3b h3s h3blocks hfn h3f h3nf h3funcs h3m h3l h3v h0l).keeps_ext
  | some stmts =>
    dsimp only at e
    rw [bind_ok] at e
    obtain ⟨⟨u3, y5⟩, e3, e⟩ := e
    replace inner := Keeps.keeps_generateBlockStatement (ihb _ rfl) inner e3
    rw [bind_ok] at e
    obtain ⟨⟨u4, y6⟩, e4, e⟩ := e
    replace inner := inner.keeps_implicitReturn e4
    cases e
    exact (hk0.keeps_restore inner h3n h3b h3s h3blocks hfn h3f h3nf h3funcs h3m h3l h3v h0l).keeps_ext

/-- An expression lowered outside `irgen.go` keeps the generator, by its
contract. -/
theorem ExprKept.kept_external {e : Expression} (l : ExternalExpression)
    (he : ∀ g, generateExpression e g = l.run g) : ExprKept e := by
  constructor
  intro a g x g' B r _ h e1
  rw [he] at e1
  have h2 := (h.keeps_ext : Keeps a x B).keeps_trans (l.keeps x r g' e1)
  rwa [List.nil_append] at h2

/-- A statement lowered outside `irgen.go` keeps the generator, by its
contract. -/
theorem StmtKept.kept_externalStatement {s : Statement} (l : ExternalStatement)
    (hs : ∀ g, generateStatement s g = l.run g) : StmtKept s := by
  constructor
  intro a g x g' B r _ h e1
  rw [hs] at e1
  have h2 := (h.keeps_ext : Keeps a x B).keeps_trans (l.keeps x r g' e1)
  rwa [List.nil_append] at h2

/-- Every expression and every statement lowers keeping the generator (by
induction on the size of the node). -/
theorem lowering_keeps (n : Nat) :
    (∀ e : Expression, sizeOf e ≤ n → ExprKept e) ∧
      (∀ s : Statement, sizeOf s ≤ n → StmtKept s) := by
  induction n with
  | zero =>
    constructor
    · intro e hn
      cases e <;> simp at hn
    · intro s hn
      cases s <;> simp at hn
  | succ n ih =>
    obtain ⟨ihE, ihS⟩ := ih
    constructor
    · intro e hn
      cases e with
      | Identifier name => exact ExprKept.kept_identifier name
      | IntegerLiteral v => exact ExprKept.kept_integer v
      | FloatLiteral b => exact ExprKept.kept_float b
      | StringLiteral v => exact ExprKept.kept_string v
      | BooleanLiteral v => exact ExprKept.kept_boolean v
      | PrefixExpression op right =>
        simp at hn
        exact ExprKept.kept_prefix op (ihE right (by omega))
      | InfixExpression left op right =>
        simp at hn
        exact ExprKept.kept_infix op (ihE left (by omega)) (ihE right (by omega))
      | PostfixExpression left op => exact ExprKept.kept_postfix left op
      | CallExpression function arguments =>
        simp at hn
        exact ExprKept.kept_call function fun e he =>
          ihE e (by have := List.sizeOf_lt_of_mem he; omega)
      | MemberCall object member arguments =>
        simp at hn
        exact ExprKept.kept_memberCall object member fun e he =>
          ihE e (by have := List.sizeOf_lt_of_mem he; omega)
      | FunctionLiteral parameters body =>
        simp at hn
        exact ExprKept.kept_functionLiteral parameters fun l hl s hs =>
          ihS s (by have := sizeOf_lt_of_mem_block hl hs; omega)
      | IfExpression condition consequence alternative =>
        simp at hn
        exact ExprKept.kept_ifExpression (ihE condition (by omega))
          (fun l hl s hs => ihS s (by have := sizeOf_lt_of_mem_block hl hs; omega))
          (fun l hl s hs => ihS s (by have := sizeOf_lt_of_mem_block hl hs; omega))
      | ArrayLiteral elements =>
        simp at hn
        exact ExprKept.kept_arrayLiteral fun e he =>
          ihE e (by have := List.sizeOf_lt_of_mem he; omega)
      | IndexExpression left index =>
        simp at hn
        exact ExprKept.kept_indexExpression (ihE left (by omega)) (ihE index (by omega))
      | ArrayType size elementType => exact ExprKept.kept_arrayType size elementType
      | NewExpression l => exact ExprKept.kept_external l fun _ => rfl
      | MemberExpression l => exact ExprKept.kept_external l fun _ => rfl
      | TemplateExpression l => exact ExprKept.kept_external l fun _ => rfl
      | TryExpression l => exact ExprKept.kept_external l fun _ => rfl
      | Other t => exact ExprKept.kept_otherExpression t
    · intro s hn
      cases s with
      | PackageStatement name => exact StmtKept.kept_package name
      | ImportStatement => exact StmtKept.kept_importStatement
      | ExpressionStatement e =>
        simp at hn
        exact StmtKept.kept_expression (ihE e (by omega))
      | VarStatement name type value =>
        simp at hn
        exact StmtKept.kept_var name type fun v hv =>
          ihE v (by have := sizeOf_lt_of_some hv; omega)
      | ReturnStatement returnValue =>
        simp at hn
        exact StmtKept.kept_returnStatement fun v hv =>
          ihE v (by have := sizeOf_lt_of_some hv; omega)
      | BlockStatement statements =>
        simp at hn
        exact StmtKept.kept_block fun s hs =>
          ihS s (by have := List.sizeOf_lt_of_mem hs; omega)
      | WhileStatement condition body =>
        simp at hn
        exact StmtKept.kept_whileStatement (ihE condition (by omega))
          (fun l hl s hs => ihS s (by have := sizeOf_lt_of_mem_block hl hs; omega))
      | ForStatement init condition post body =>
        simp at hn
        exact StmtKept.kept_forStatement
          (fun s hs => ihS s (by have := sizeOf_lt_of_some hs; omega))
          (fun c hc => ihE c (by have := sizeOf_lt_of_some hc; omega))
          (fun s hs => ihS s (by have := sizeOf_lt_of_some hs; omega))
          (fun l hl s hs => ihS s (by have := sizeOf_lt_of_mem_block hl hs; omega))
      | SwitchStatement tag cases =>
        simp at hn
        exact StmtKept.kept_switchStatement
          (fun t ht => ihE t (by have := sizeOf_lt_of_some ht; omega))
          (fun c hc e he => ihE e (by have := sizeOf_lt_of_mem_values hc he; omega))
          (fun c hc s hs => ihS s (by have := sizeOf_lt_of_mem_body hc hs; omega))
      | FunctionStatement name parameters returnType body =>
        simp at hn
        exact StmtKept.kept_functionStatement name parameters returnType fun l hl s hs =>
          ihS s (by have := sizeOf_lt_of_mem_block hl hs; omega)
      | ClassStatement l => exact StmtKept.kept_externalStatement l fun _ => rfl
      | TemplateStatement l => exact StmtKept.kept_externalStatement l fun _ => rfl
      | TryCatchStatement l => exact StmtKept.kept_externalStatement l fun _ => rfl
      | ThrowStatement l => exact StmtKept.kept_externalStatement l fun _ => rfl
      | Other t => exact StmtKept.kept_otherStatement t

/-- Lowering an expression keeps the generator. -/
theorem generateExpression_keeps (e : Expression) (g g' : IRGenerator) (r : Option Value)
    (h : generateExpression e g = .ok (r, g')) : Keeps g g' [] :=
  ((lowering_keeps (sizeOf e)).1 e (Nat.le_refl _)).keeps (Keeps.keeps_refl g) h

/-- Lowering a statement keeps the generator. -/
theorem generateStatement_keeps (s : Statement) (g g' : IRGenerator) (r : Unit)
    (h : generateStatement s g = .ok (r, g')) : Keeps g g' [] :=
  ((lowering_keeps (sizeOf s)).2 s (Nat.le_refl _)).keeps (Keeps.keeps_refl g) h

/-- Lowering a block keeps the generator. -/
theorem generateBlockStatement_kept (l : List Statement) (g g' : IRGenerator) (r : Unit)
    (h : generateBlockStatement l g = .ok (r, g')) : Keeps g g' [] :=
  Keeps.keeps_generateBlockStatement
    (fun s _ => (lowering_keeps (sizeOf s)).2 s (Nat.le_refl _)) (Keeps.keeps_refl g) h

theorem generateExpression_if_arms (condition : Expression)
    (consequence alternative : Option (List Statement)) (g g1 : IRGenerator) (c : Value)
    (f b : Nat) (hc : generateExpression condition g = .ok (some c, g1))
    (hf : g1.currentFunc = some f) (hb : g1.currentBB = some b) :
    generateExpression (.IfExpression condition consequence alternative) g =
      (do
        let (_, g) ← ifArm consequence (g1.nblocks + 2) (ifHead c f b g1)
        let (_, g) ← ifArm alternative (g1.nblocks + 2) (g.setCurrentBB (some (g1.nblocks + 1)))
        pure (none, g.setCurrentBB (some (g1.nblocks + 2)))) := by
  rw [generateExpression_ifExpression_eq, hc]
  have h1 : g1.nextLabel.currentFunc = some f := hf
  have h2 : ∀ n, (g1.nextLabel.addBlock f n).currentFunc = some f := fun _ => hf
  have h3 : ∀ n m, ((g1.nextLabel.addBlock f n).addBlock f m).currentFunc = some f :=
    fun _ _ => hf
  have h4 : ∀ n m k, (((g1.nextLabel.addBlock f n).addBlock f m).addBlock f k).currentBB = some b :=
    fun _ _ _ => hb
  show (if g1.currentFunc.isNone then _ else _) = _
  rw [hf]
  show (do
    let (thenBlock, g) ← g1.nextLabel.NewBlock g1.nextLabel.currentFunc _
    _) = _
  rw [h1, NewBlock_some]
  show (do
    let (elseBlock, g) ← (g1.nextLabel.addBlock f _).NewBlock (g1.nextLabel.addBlock f _).currentFunc _
    _) = _
  rw [h2, NewBlock_some]
  show (do
    let (mergeBlock, g) ← ((g1.nextLabel.addBlock f _).addBlock f _).NewBlock
      ((g1.nextLabel.addBlock f _).addBlock f _).currentFunc _
    _) = _
  rw [h3, NewBlock_some]
  show (do
    let (_, g) ← (((g1.nextLabel.addBlock f _).addBlock f _).addBlock f _).NewCondBr
      (((g1.nextLabel.addBlock f _).addBlock f _).addBlock f _).currentBB c _ _
    _) = _
  rw [h4]
  cases consequence <;> cases alternative <;> simp only [ifArm, bind_assoc] <;> rfl

/-- What one arm of an if-expression does, started on an existing block `t`
inside a function: everything else is kept, and the block the arm ends in
branches to the merge block unless the arm closed it. -/
theorem ifArm_spec (arm : Option (List Statement)) (mergeBlock t : Nat) (x g4 : IRGenerator)
    (ht : x.currentBB = some t) (hlt : t < x.nblocks)
    (e : ifArm arm mergeBlock x = .ok ((), g4)) :
    Keeps x g4 [] ∧ Grows x g4 ∧
      (arm = none → g4.blocks t = (x.blocks t).close (.Br mergeBlock)) ∧
      (∀ stmts, arm = some stmts → ∃ g3 d3, generateBlockStatement stmts x = .ok ((), g3) ∧
        g3.currentBB = some d3 ∧ (d3 = t ∨ x.nblocks ≤ d3) ∧ d3 < g4.nblocks ∧
        (g4.blocks d3).term = some ((g3.blocks d3).term.getD (.Br mergeBlock))) := by
  cases arm with
  | none =>
    have e2 : x.NewTerm x.currentBB (.Br mergeBlock) = .ok ((), g4) := e
    refine ⟨(Keeps.keeps_refl x).keeps_NewTerm e2, (Grows.refl x).NewTerm e2, ?_, ?_⟩
    · intro _
      rw [ht, NewTerm_some] at e2
      cases e2
      simp [IRGenerator.setTerm]
    · intro stmts hs
      cases hs
  | some stmts =>
    rw [ifArm, bind_ok] at e
    obtain ⟨⟨u, g3⟩, e1, e2⟩ := e
    cases u
    dsimp only at e2
    have k3 := generateBlockStatement_kept stmts x g3 () e1
    have w3 : Grows x g3 :=
      Grows.generateBlockStatement (fun s _ => (lowering_grows (sizeOf s)).2 s (Nat.le_refl _))
        (Grows.refl x) e1
    have k4 : Keeps x g4 [] := k3.keeps_brIfOpen e2
    have w4 : Grows x g4 := w3.brIfOpen e2
    refine ⟨k4, w4, ?_, ?_⟩
    · intro h
      cases h
    · intro stmts2 hs
      cases hs
      rcases hd : g3.currentBB with _ | d3
      · have := k3.cursorNone hd
        rw [ht] at this
        cases this
      · have hv : d3 < g3.nblocks :=
          k3.cursorValid (fun c hc => by rw [ht] at hc; cases hc; exact hlt) d3 hd
        have hcur : d3 = t ∨ x.nblocks ≤ d3 := by
          rcases k3.cursor d3 hd with h | h
          · rw [ht] at h
            cases h
            exact Or.inl rfl
          · exact Or.inr h.1
        refine ⟨g3, d3, e1, hd, hcur,
          Nat.lt_of_lt_of_le hv (Grows.brIfOpen (Grows.refl g3) e2).nblocks, ?_⟩
        · unfold IRGenerator.brIfOpen at e2
          rw [hd, TermOf_some] at e2
          rcases ht3 : (g3.blocks d3).term with _ | t3
          · rw [ht3] at e2
            have e3 : g3.NewTerm (some d3) (.Br mergeBlock) = .ok ((), g4) := e2
            rw [NewTerm_some] at e3
            cases e3
            simp [IRGenerator.setTerm]
          · rw [ht3] at e2
            cases e2
            rw [ht3]
            rfl

/-! ### The parser loop, recursive declarations, logical operators, invariants -/

theorem parseExpressionLoop_semicolon (G : Grammar) (fuel precedence : Nat)
    (leftExp : Option Node) (p : Parser) (h : p.peekToken.typ = G.SEMICOLON) :
    parseExpressionLoop G (fuel + 1) precedence leftExp p = some (leftExp, p) := by
  rw [parseExpressionLoop]
  simp [Parser.peekTokenIs, h]

theorem parseExpressionLoop_low (G : Grammar) (fuel precedence : Nat)
    (leftExp : Option Node) (p : Parser) (h : ¬precedence < p.peekPrecedence G) :
    parseExpressionLoop G (fuel + 1) precedence leftExp p = some (leftExp, p) := by
  rw [parseExpressionLoop]
  simp [h]

theorem parseExpressionLoop_operator (G : Grammar) (fuel precedence : Nat)
    (leftExp : Option Node) (p : Parser) (hs : p.peekToken.typ ≠ G.SEMICOLON)
    (hp : precedence < p.peekPrecedence G)
    (hi : G.infixParseFns p.peekToken.typ = some .parseInfixExpression) :
    parseExpressionLoop G (fuel + 3) precedence leftExp p =
      match parseExpression G fuel (p.peekPrecedence G) p.nextToken.nextToken with
      | none => none
      | some (right, q) =>
        parseExpressionLoop G (fuel + 2) precedence (infixNode p.peekToken leftExp right) q := by
  rw [parseExpressionLoop]
  simp only [Parser.peekTokenIs, hs, hp, hi, decide_False, Bool.not_false, decide_True,
    Bool.and_self, if_true]
  rw [callInfixFn, parseInfixExpression]
  have hcp : p.nextToken.curPrecedence G = p.peekPrecedence G := rfl
  rw [hcp]
  cases parseExpression G fuel (p.peekPrecedence G) p.nextToken.nextToken <;> rfl

theorem parseExpression_operand (G : Grammar) (fuel precedence : Nat) (p q : Parser)
    (fn : PrefixParseFn) (a : Option Node) (hf : G.prefixParseFns p.curToken.typ = some fn)
    (ha : callPrefixFn G fuel fn p = some (a, q)) :
    parseExpression G (fuel + 1) precedence p = parseExpressionLoop G fuel precedence a q := by
  rw [parseExpression]
  simp only [hf, ha]

theorem callPrefixFn_parseIdentifier (G : Grammar) (p : Parser) (fuel : Nat) (h : 1 ≤ fuel) :
    callPrefixFn G fuel .parseIdentifier p = some (parseIdentifier p, p) := by
  obtain ⟨k, rfl⟩ : ∃ k, fuel = k + 1 := ⟨fuel - 1, by omega⟩
  rfl

theorem functionReturnType_nfuncs (returnType : Option Expression) (g : IRGenerator) :
    (functionReturnType returnType g).2.nfuncs = g.nfuncs := by
  unfold functionReturnType
  split
  · split <;> rfl
  · rfl
  · rfl

/-- Lowering a list of call arguments keeps the generator. -/
theorem callArguments_kept (l : List Expression) (g g' : IRGenerator) (r : List Value)
    (h : callArguments l g = .ok (r, g')) : Keeps g g' [] :=
  Keeps.keeps_callArguments
    (fun e _ => (lowering_keeps (sizeOf e)).1 e (Nat.le_refl _)) (Keeps.keeps_refl g) h

theorem two_le_countP {α : Type} (p : α → Bool) (l : List α) (a b : α) (hab : a ≠ b)
    (ha : a ∈ l) (hb : b ∈ l) (hpa : p a = true) (hpb : p b = true) : 2 ≤ l.countP p := by
  induction l with
  | nil => cases ha
  | cons c rest ih =>
    by_cases hac : a = c
    · have hb2 : b ∈ rest := by
        rcases List.mem_cons.mp hb with h | h
        · exact absurd (hac.trans h.symm) hab
        · exact h
      have h1 : 0 < rest.countP p := List.countP_pos_iff.mpr ⟨b, hb2, hpb⟩
      rw [List.countP_cons_of_pos _ _ (by rw [← hac]; exact hpa)]
      omega
    · have ha2 : a ∈ rest := by
        rcases List.mem_cons.mp ha with h | h
        · exact absurd h hac
        · exact h
      by_cases hbc : b = c
      · have h1 : 0 < rest.countP p := List.countP_pos_iff.mpr ⟨a, ha2, hpa⟩
        rw [List.countP_cons_of_pos _ _ (by rw [← hbc]; exact hpb)]
        omega
      · have hb2 : b ∈ rest := by
          rcases List.mem_cons.mp hb with h | h
          · exact absurd h hbc
          · exact h
        have := ih ha2 hb2
        rw [List.countP_cons]
        omega

/-- The generator at the start of a function body: inside the new function,
which carries the declared name and is listed in the module. -/
theorem functionEntry_spec (f : String) (parameters : List String)
    (returnType : Option Expression) (g ge : IRGenerator)
    (h : functionEntry f parameters returnType g = .ok ((), ge)) :
    ge.currentFunc = some g.nfuncs ∧ g.nfuncs < ge.nfuncs ∧ (ge.funcs g.nfuncs).name = f ∧
      g.nfuncs ∈ ge.module.funcs ∧ ∃ b, ge.currentBB = some b := by
  unfold functionEntry at h
  rcases hfr : functionReturnType returnType g with ⟨retTy, g0⟩
  have hn0 : g0.nfuncs = g.nfuncs := by
    have := functionReturnType_nfuncs returnType g
    rw [hfr] at this
    exact this
  rw [hfr] at h
  dsimp only [IRGenerator.NewFunc] at h
  have k0 : Keeps (g0.addFunc f retTy []) (appendParams parameters g0.nfuncs
      (g0.addFunc f retTy [])) [] := (Keeps.keeps_refl _).keeps_ext
  generalize hy0 : appendParams parameters g0.nfuncs (g0.addFunc f retTy []) = y0 at h k0
  rw [NewBlock_some] at h
  have h2 : bindParameters parameters 0 g0.nfuncs (y0.setCurrentFunc (some g0.nfuncs)).nblocks
      (((y0.setCurrentFunc (some g0.nfuncs)).addBlock g0.nfuncs "entry").setCurrentBB
        (some (y0.setCurrentFunc (some g0.nfuncs)).nblocks)) = .ok ((), ge) := h
  generalize hy3 : ((y0.setCurrentFunc (some g0.nfuncs)).addBlock g0.nfuncs "entry").setCurrentBB
    (some (y0.setCurrentFunc (some g0.nfuncs)).nblocks) = y3 at h2
  have h3b : y3.currentBB = some y0.nblocks := by
    rw [← hy3]
    rfl
  have o3 : Owned y3 (y0.setCurrentFunc (some g0.nfuncs)).nblocks := ⟨Or.inl h3b⟩
  have k3 : Keeps y3 ge [] := (Keeps.keeps_refl y3).keeps_bindParameters h2
  have hlt0 : g0.nfuncs < y0.nfuncs :=
    Nat.lt_of_lt_of_le (Nat.lt_succ_self _) k0.functions.nfuncs
  have hlt3 : g0.nfuncs < y3.nfuncs := by
    rw [← hy3]
    exact hlt0
  have hname0 : (y0.funcs g0.nfuncs).name = f := by
    rw [k0.functions.names _ (Nat.lt_succ_self _)]
    simp [update]
  have hname3 : (y3.funcs g0.nfuncs).name = f := by
    rw [← hy3]
    simp [IRGenerator.addBlock, update, hname0]
  have hmem0 : g0.nfuncs ∈ y0.module.funcs :=
    k0.functions.listed _ (by simp)
  have hmem3 : g0.nfuncs ∈ y3.module.funcs := by
    rw [← hy3]
    exact hmem0
  rw [← hn0]
  refine ⟨?_, Nat.lt_of_lt_of_le hlt3 k3.functions.nfuncs, ?_, k3.functions.listed _ hmem3, ?_⟩
  · rw [k3.currentFunc, ← hy3]
    rfl
  · rw [k3.functions.names _ hlt3, hname3]
  · rcases hb : ge.currentBB with _ | b
    · have := k3.cursorNone hb
      rw [h3b] at this
      cases this
    · exact ⟨b, rfl⟩

/-- A function statement is its entry, its body, the implicit return and the
restored cursor with the name bound. -/
theorem generateStatement_function_entry (f : String) (parameters : List String)
    (returnType : Option Expression) (stmts : List Statement) (g : IRGenerator) :
    generateStatement (.FunctionStatement f parameters returnType (some stmts)) g =
      (do
        let (_, ge) ← functionEntry f parameters returnType g
        let (_, g5) ← generateBlockStatement stmts ge
        let (_, g6) ← implicitReturn false g5
        let g7 := (g6.setCurrentFunc g.currentFunc).setCurrentBB g.currentBB
        pure ((), g7.bindSymbol f (g7.funcValue g.nfuncs))) := by
  rw [generateStatement_function_eq]
  unfold functionEntry
  rcases hfr : functionReturnType returnType g with ⟨retTy, g0⟩
  have hn0 : g0.nfuncs = g.nfuncs := by
    have := functionReturnType_nfuncs returnType g
    rw [hfr] at this
    exact this
  have hc0 := functionReturnType_currentFunc returnType g
  rw [hfr] at hc0
  dsimp only [IRGenerator.NewFunc]
  have hc1 := appendParams_currentFunc parameters g0.nfuncs (g0.addFunc f retTy [])
  have e1 : (appendParams parameters g0.nfuncs (g0.addFunc f retTy [])).currentFunc =
      g.currentFunc := hc1.1.trans hc0.1
  have e2 : (appendParams parameters g0.nfuncs (g0.addFunc f retTy [])).currentBB =
      g.currentBB := hc1.2.trans hc0.2
  rw [e1, e2, hn0]
  simp only [NewBlock_some, bind_assoc]
  rfl

/-- A call of the unbound name `f` in a generator with a current block: the
callee is a function declared on the spot. -/
theorem generateExpression_call_unbound (f : String) (arguments : List Expression)
    (x : IRGenerator) (b : Nat)
    (hname : f ≠ "len" ∧ f ≠ "cap" ∧ f ≠ "append" ∧ f ≠ "make")
    (hunbound : lookup f x.symbolTable = none) (hb : x.currentBB = some b) :
    generateExpression (.CallExpression (.Identifier f) arguments) x =
      (do
        let (args, g) ← callArguments arguments
          (((x.addFunc f .I32 []).bindSymbol f (.Func x.nfuncs (.Func .I32 .nil false))).noteLazy
            f x.nfuncs)
        asResult (g.NewCall g.currentBB (.Func x.nfuncs (.Func .I32 .nil false)) args)) := by
  rw [generateExpression_call_eq]
  dsimp only
  rw [if_neg hname.1, if_neg hname.2.1, if_neg hname.2.2.1, if_neg hname.2.2.2]
  unfold resolveCallee
  rw [hunbound]
  dsimp only [IRGenerator.NewFunc]
  have hv : (x.addFunc f .I32 []).funcValue x.nfuncs = .Func x.nfuncs (.Func .I32 .nil false) := by
    simp [IRGenerator.funcValue, update, TyList.ofList]
  rw [hv]
  have hb2 : (((x.addFunc f .I32 []).bindSymbol f
      (.Func x.nfuncs (.Func .I32 .nil false))).noteLazy f x.nfuncs).currentBB = some b := hb
  rw [hb2]
  rfl

/-- The return-type resolution declares no function. -/
theorem functionReturnType_lazyDeclared (returnType : Option Expression) (g : IRGenerator) :
    (functionReturnType returnType g).2.lazyDeclared = g.lazyDeclared := by
  unfold functionReturnType
  split
  · split <;> rfl
  · rfl
  · rfl

/-- The log of lazily declared functions at the start of a function body:
an entry that was not in the log before the declaration names a function
other than the one being defined. -/
theorem functionEntry_logged (f : String) (parameters : List String)
    (returnType : Option Expression) (g ge : IRGenerator)
    (h : functionEntry f parameters returnType g = .ok ((), ge)) :
    ∀ p ∈ ge.lazyDeclared, p ∈ g.lazyDeclared ∨
      (g.nfuncs < p.2 ∧ p.2 < ge.nfuncs ∧ (ge.funcs p.2).name = p.1 ∧
        (ge.funcs p.2).blocks = [] ∧ p.2 ∈ ge.module.funcs) := by
  unfold functionEntry at h
  rcases hfr : functionReturnType returnType g with ⟨retTy, g0⟩
  have hn0 : g0.nfuncs = g.nfuncs := by
    have := functionReturnType_nfuncs returnType g
    rw [hfr] at this
    exact this
  have hl0 : g0.lazyDeclared = g.lazyDeclared := by
    have := functionReturnType_lazyDeclared returnType g
    rw [hfr] at this
    exact this
  rw [hfr] at h
  dsimp only [IRGenerator.NewFunc] at h
  generalize hy0 : appendParams parameters g0.nfuncs (g0.addFunc f retTy []) = y0 at h
  rw [NewBlock_some] at h
  have h2 : bindParameters parameters 0 g0.nfuncs (y0.setCurrentFunc (some g0.nfuncs)).nblocks
      (((y0.setCurrentFunc (some g0.nfuncs)).addBlock g0.nfuncs "entry").setCurrentBB
        (some (y0.setCurrentFunc (some g0.nfuncs)).nblocks)) = .ok ((), ge) := h
  generalize hy3 : ((y0.setCurrentFunc (some g0.nfuncs)).addBlock g0.nfuncs "entry").setCurrentBB
    (some (y0.setCurrentFunc (some g0.nfuncs)).nblocks) = y3 at h2
  have h3b : y3.currentBB = some y0.nblocks := by
    rw [← hy3]
    rfl
  have o3 : Owned y3 (y0.setCurrentFunc (some g0.nfuncs)).nblocks := ⟨Or.inl h3b⟩
  have k3 : Keeps y3 ge [] := (Keeps.keeps_refl y3).keeps_bindParameters h2
  have h3n : y3.nfuncs = g.nfuncs + 1 := by
    rw [← hy3]
    show y0.nfuncs = _
    rw [← hy0, appendParams_nfuncs, ← hn0]
    rfl
  have h3l : y3.lazyDeclared = g.lazyDeclared := by
    rw [← hy3]
    show y0.lazyDeclared = _
    rw [← hy0, appendParams_lazyDeclared, ← hl0]
    rfl
  have h3v : ∀ d, y3.currentFunc = some d → d < y3.nfuncs := by
    intro d hd
    rw [← hy3] at hd
    have hd2 : some g0.nfuncs = some d := hd
    cases hd2
    omega
  intro p hp
  rcases k3.functions.declared h3v p hp with h1 | ⟨k1, k2, k3', k4, k5⟩
  · rw [h3l] at h1
    exact Or.inl h1
  · exact Or.inr ⟨by omega, k2, k3', k4, k5⟩

theorem generateExpression_logical (left right : Expression) (op : String)
    (g g1 g2 : IRGenerator) (lv rv : Value) (f b : Nat) (hop : op = "&&" ∨ op = "||")
    (hl : generateExpression left g = .ok (some lv, g1))
    (hr : generateExpression right g1 = .ok (some rv, g2))
    (hf : g2.currentFunc = some f) (hb : g2.currentBB = some b) :
    generateExpression (.InfixExpression left op right) g =
      (do
        let (_, g) ← generateExpression right (logicalHead op lv f b g2)
        let (_, g) ← g.NewBr g.currentBB (g2.nblocks + 1)
        pure (some (logicalResult op), g.setCurrentBB (some (g2.nblocks + 1)))) := by
  rw [generateExpression_infix_eq]
  have h4 : ∀ n m, ((g2.addBlock f n).addBlock f m).currentBB = some b := fun _ _ => hb
  rcases hop with rfl | rfl
  · rw [if_neg (by decide), hl]
    show (do
      let (rv, g) ← generateExpression right g1
      _) = _
    rw [hr]
    show (if g2.currentBB.isNone then _ else _) = _
    rw [hb]
    show (match g2.currentFunc with
      | none => _
      | some currFunc => _) = _
    rw [hf]
    show (do
      let (_, g) ← ((g2.addBlock f "").addBlock f "").NewCondBr
        ((g2.addBlock f "").addBlock f "").currentBB lv _ _
      _) = _
    rw [h4]
    rfl
  · rw [if_neg (by decide), hl]
    show (do
      let (rv, g) ← generateExpression right g1
      _) = _
    rw [hr]
    show (if g2.currentBB.isNone then _ else _) = _
    rw [hb]
    show (match g2.currentFunc with
      | none => _
      | some currFunc => _) = _
    rw [hf]
    show (do
      let (_, g) ← ((g2.addBlock f "").addBlock f "").NewCondBr
        ((g2.addBlock f "").addBlock f "").currentBB lv _ _
      _) = _
    rw [h4]
    rfl

theorem Keeps.keeps_cursorConsistent {g g' : IRGenerator} {B : List Nat} (h : Keeps g g' B)
    (hg : g.cursorConsistent) : g'.cursorConsistent := by
  unfold IRGenerator.cursorConsistent at hg ⊢
  rw [h.currentFunc]
  rcases hb : g'.currentBB with _ | c
  · rw [h.cursorNone hb] at hg
    exact hg
  · rcases h.cursor c hb with h1 | ⟨_, h1⟩
    · rw [h1] at hg
      exact hg
    · cases hf : g.currentFunc with
      | none => rw [hf] at h1; cases h1
      | some f => rfl

theorem lookup_mem {α : Type} (key : String) (m : List (String × α)) (v : α)
    (h : lookup key m = some v) : (key, v) ∈ m := by
  induction m with
  | nil => cases h
  | cons p rest ih =>
    rcases p with ⟨k, w⟩
    unfold lookup at h
    split at h
    · next hk =>
      cases h
      rw [hk]
      exact List.mem_cons_self _ _
    · exact List.mem_cons_of_mem _ (ih h)

/-- Lowering the body of a case clause keeps the generator. -/
theorem caseBody_kept (l : List Statement) (g g' : IRGenerator)
    (h : caseBody l g = .ok ((), g')) : Keeps g g' [] :=
  caseBody_keeps l (fun s _ => (lowering_keeps (sizeOf s)).2 s (Nat.le_refl _)) g g g' [] ()
    (Keeps.keeps_refl g) h

/-- The closing branch of a clause body: the current block gets the branch
when it is open and is left as it is otherwise; no other block changes. -/
theorem brIfOpen_spec (g g' : IRGenerator) (target : Nat) (h : g.brIfOpen target = .ok ((), g')) :
    ∃ d, g.currentBB = some d ∧ g'.nblocks = g.nblocks ∧ g'.currentBB = some d ∧
      g'.currentFunc = g.currentFunc ∧
      (g'.blocks d).name = (g.blocks d).name ∧ (g'.blocks d).insts = (g.blocks d).insts ∧
      (g'.blocks d).term = some ((g.blocks d).term.getD (.Br target)) ∧
      ∀ c, c ≠ d → g'.blocks c = g.blocks c := by
  unfold IRGenerator.brIfOpen at h
  rcases hb : g.currentBB with _ | d
  · rw [hb] at h
    cases h
  · rw [hb] at h
    simp only [IRGenerator.TermOf] at h
    rcases ht : (g.blocks d).term with _ | t
    · rw [ht] at h
      simp only [IRGenerator.NewBr, NewTerm_some, Except.ok.injEq, Prod.mk.injEq, true_and] at h
      subst h
      refine ⟨d, rfl, rfl, hb, rfl, ?_, ?_, ?_, ?_⟩
      · simp [Block.close]
      · simp [Block.close]
      · simp [Block.close, ht]
      · intro c hc
        simp [hc]
    · rw [ht] at h
      simp only [Except.ok.injEq, Prod.mk.injEq, true_and] at h
      subst h
      exact ⟨d, rfl, rfl, hb, rfl, rfl, rfl, by simp [ht], fun _ _ => rfl⟩


/-- The frame of the loop that lowers the clause bodies of a switch whose
case blocks are `base + i`, `base + i + 1`, ... and exist: a block that is
no case block of the loop is untouched by it; the body of clause `j` is
lowered with the cursor on its case block, which is then as it was before
the loop; the block `d` in which the body ends gets the branch to the end
block `e` when the body left it open and keeps its terminator otherwise;
and what the body made of the other blocks stays, the case blocks of later
clauses apart. -/
theorem switchBodies_frame (e base : Nat) (cbs : List Nat) :
    ∀ (cs : List CaseClause) (i : Nat) (g g' : IRGenerator),
      (∀ j, j < cs.length → cbs.getD (i + j) 0 = base + i + j) →
      base + i + cs.length ≤ g.nblocks →
      switchBodies cs i cbs e g = .ok ((), g') →
      g.nblocks ≤ g'.nblocks ∧
      (∀ c, c < g.nblocks → (c < base + i ∨ base + i + cs.length ≤ c) →
        g'.blocks c = g.blocks c) ∧
      ∀ j (h : j < cs.length), ∃ x y d,
        x.currentBB = some (base + i + j) ∧
        x.blocks (base + i + j) = g.blocks (base + i + j) ∧
        g.nblocks ≤ x.nblocks ∧
        caseBody (cs.get ⟨j, h⟩).body x = .ok ((), y) ∧ y.currentBB = some d ∧
        (d = base + i + j ∨ x.nblocks ≤ d) ∧ d < y.nblocks ∧ y.nblocks ≤ g'.nblocks ∧
        (g'.blocks d).name = (y.blocks d).name ∧ (g'.blocks d).insts = (y.blocks d).insts ∧
        (g'.blocks d).term = some ((y.blocks d).term.getD (.Br e)) ∧
        ∀ c, c < y.nblocks → c ≠ d → (c < base + i + j + 1 ∨ base + i + cs.length ≤ c) →
          g'.blocks c = y.blocks c := by
  intro cs
  induction cs with
  | nil =>
    intro i g g' _ _ h
    cases h
    exact ⟨Nat.le_refl _, fun _ _ _ => rfl, fun j hj => absurd hj (by simp)⟩
  | cons cl rest ih =>
    intro i g g' hcb hn h
    obtain ⟨dflt, vs, body⟩ := cl
    have hcb0 : cbs.getD i 0 = base + i := by simpa using hcb 0 (by simp)
    have hlen : (CaseClause.mk dflt vs body :: rest).length = rest.length + 1 := rfl
    rw [hlen] at hn
    rw [switchBodies_cons, hcb0, bind_ok] at h
    obtain ⟨⟨u1, y⟩, e1, h⟩ := h
    cases u1
    rw [bind_ok] at h
    obtain ⟨⟨u2, g1⟩, e2, h⟩ := h
    cases u2
    dsimp only at h e2
    have k := caseBody_kept body _ y e1
    obtain ⟨d, hd, hn1, -, -, hname, hinsts, hterm, hfr1⟩ := brIfOpen_spec y g1 e e2
    have hxn : (g.setCurrentBB (some (base + i))).nblocks = g.nblocks := rfl
    have hkn : g.nblocks ≤ y.nblocks := k.nblocks
    have hdc : d = base + i ∨ g.nblocks ≤ d := by
      rcases k.cursor d hd with h1 | ⟨h1, _⟩
      · exact Or.inl (Option.some.inj h1).symm
      · exact Or.inr h1
    have hdlt : d < y.nblocks := k.cursorValid (by
      intro c hc
      have := Option.some.inj hc
      show c < g.nblocks
      omega) d hd
    have hkb : ∀ c, c < g.nblocks → c ≠ base + i → y.blocks c = g.blocks c := by
      intro c hc hne
      exact k.blocks c hc (by
        intro hh
        exact hne (Option.some.inj hh).symm)
    obtain ⟨hn', hfr', hres'⟩ := ih (i + 1) g1 g'
      (fun j hj => by
        have := hcb (j + 1) (by simpa using hj)
        simpa [Nat.add_assoc, Nat.add_comm 1 j] using this)
      (by rw [hn1]; omega) h
    refine ⟨by omega, ?_, ?_⟩
    · intro c hc hcc
      rw [hlen] at hcc
      rw [hfr' c (by omega) (by omega), hfr1 c (by omega), hkb c hc (by omega)]
    · intro j hj
      cases j with
      | zero =>
        refine ⟨g.setCurrentBB (some (base + i)), y, d, rfl, rfl, Nat.le_refl _, e1, hd,
          ?_, hdlt, by omega, ?_, ?_, ?_, ?_⟩
        · rcases hdc with h1 | h1
          · exact Or.inl h1
          · exact Or.inr h1
        · rw [hfr' d (by omega) (by omega)]
          exact hname
        · rw [hfr' d (by omega) (by omega)]
          exact hinsts
        · rw [hfr' d (by omega) (by omega)]
          exact hterm
        · intro c hc hne hcc
          rw [hlen] at hcc
          rw [hfr' c (by omega) (by omega), hfr1 c hne]
      | succ j =>
        have hj' : j < rest.length := by simpa using hj
        obtain ⟨x, y2, d2, q1, q2, q3, q4, q5, q6, q7, q8, q9, q10, q11, q12⟩ := hres' j hj'
        have hidx : base + (i + 1) + j = base + i + (j + 1) := by omega
        rw [hidx] at q1 q2 q6
        refine ⟨x, y2, d2, q1, ?_, by omega, q4, q5, q6, q7, q8, q9, q10, q11, ?_⟩
        · rw [q2, hfr1 _ (by omega), hkb _ (by omega) (by omega)]
        · intro c hc hne hcc
          rw [hlen] at hcc
          exact q12 c hc hne (by omega)

/-- The body of a clause with literal values. -/
theorem literalClause_body (c : Bool × List Int × List Statement) :
    (literalClause c).body = c.2.2 := rfl

/-! ## The claims -/

/-- C1.  When `GenerateProgram` returns a module, no diagnostic has been
reported and every block of every function of the module has a terminator,
which is a branch, a conditional branch, a return or `unreachable`: the
printer `module.String()`, the last step of `GenerateProgram`, does not
return on a module with a block that lacks one, so no such module is
returned. -/
theorem C1_returned_module_has_no_open_block (p : Program) (g g' : IRGenerator) (m : Module)
    (h : GenerateProgram p g = .ok (some m, g')) :
    m = g'.module ∧ g'.errors = [] ∧ openBlocks g' m = [] ∧
    ∀ f ∈ m.funcs, ∀ b ∈ (g'.funcs f).blocks, ∃ t, (g'.blocks b).term = some t ∧
      ((∃ target, t = .Br target) ∨ (∃ c tt ff, t = .CondBr c tt ff) ∨ (∃ x, t = .Ret x) ∨
        t = .Unreachable) := by
  have key : m = g'.module ∧ g'.errors = [] ∧ openBlocks g' m = [] := by
    unfold GenerateProgram at h
    dsimp only at h
    split at h
    · cases h
    · split at h
      · cases h
      · split at h
        · cases h
        · rename_i g2 hm
          split at h
          · cases h
          · rename_i he
            cases hs : g2.moduleString with
            | error e => rw [hs] at h; cases h
            | ok m2 =>
              rw [hs] at h
              simp only [Except.map, Except.ok.injEq, Prod.mk.injEq, Option.some.injEq] at h
              obtain ⟨h1, h2⟩ := h
              subst h2
              subst h1
              obtain ⟨k1, k2⟩ := moduleString_ok _ _ hs
              refine ⟨k1, ?_, ?_⟩
              · cases hl : g2.errors with
                | nil => rfl
                | cons a l => rw [hl] at he; simp at he
              · rw [k1]; exact k2
  refine ⟨key.1, key.2.1, key.2.2, ?_⟩
  intro f hf b hb
  obtain ⟨t, ht⟩ := openBlocks_nil g' m key.2.2 f hf b hb
  refine ⟨t, ht, ?_⟩
  cases t with
  | Br target => exact Or.inl ⟨target, rfl⟩
  | CondBr c tt ff => exact Or.inr (Or.inl ⟨c, tt, ff, rfl⟩)
  | Ret x => exact Or.inr (Or.inr (Or.inl ⟨x, rfl⟩))
  | Unreachable => exact Or.inr (Or.inr (Or.inr rfl))

/-- C1 at `func f() { while false { } while false { } }` on a new
generator. -/
theorem C1_returned_module_witness :
    ∃ m g', GenerateProgram twoWhileProgram New = .ok (some m, g') ∧ openBlocks g' m = [] :=
  ⟨_, _, rfl, (C1_returned_module_has_no_open_block twoWhileProgram New _ _ rfl).2.2.1⟩

/-- C2 (defect in the code).  On the program
`func f(x, a, b) { switch x { case a: case b: } }` the generator returns the
module without any diagnostic, yet it has written into a block that was
already terminated: the load of `b` (the value of the second case) is the
last instruction of the function's entry block, appended after that block
received its conditional branch on the comparison with `a`. -/
theorem C2_switch_value_emitted_into_terminated_block :
    (compile switchOnVariablesProgram).map
        (fun r => (r.2.errors, r.2.lateWrites, (r.2.blocks 0).insts.getLast?, (r.2.blocks 0).term)) =
      some ([], 1, some (.Load 6 .I32 (.Inst 2 (.Pointer .I32))),
        some (.CondBr (.Inst 5 .I1) 2 4)) := by
  decide

/-- C3 (defect in the code).  On the program
`func f() { while false { } while false { } }` the generator returns the
module without any diagnostic, and the blocks of `f` carry the names
`while.cond`, `while.body` and `while.end` twice each. -/
theorem C3_duplicate_block_names_for_two_while_loops :
    (compile twoWhileProgram).map (fun r => (r.2.errors, blockNames r.2 r.1 "f")) =
        some ([], ["entry", "while.cond", "while.body", "while.end",
          "while.cond", "while.body", "while.end"]) ∧
      ¬ (["entry", "while.cond", "while.body", "while.end",
          "while.cond", "while.body", "while.end"] : List String).Nodup := by
  decide

/-- C4 (defect in the code).  On the program `func g() { false && f() }`
the generator returns the module without any diagnostic, and the entry block
of `g`, which evaluates the left operand and ends in the conditional branch
on it, already contains a call of `f`; the right-hand block contains a
second call. -/
theorem C4_right_operand_lowered_before_branch :
    (compile shortCircuitProgram).map
        (fun r => (r.2.errors, (r.2.funcs 1).name, r.2.blocksOf 0)) =
      some ([], "f",
        [⟨"entry", [.Call 0 (.Func 1 (.Func .I32 .nil false)) []],
            some (.CondBr (.ConstInt .I1 0) 1 2)⟩,
          ⟨"", [.Call 1 (.Func 1 (.Func .I32 .nil false)) []], some (.Br 2)⟩,
          ⟨"", [], some (.Ret (.ConstInt .I32 0))⟩]) := by
  decide

/-- C5.  For an identifier `x` bound to 32-bit integer storage `addr` and an
open current block `b`, lowering `x++` (`binop = Add`) or `x--`
(`binop = Sub`) succeeds, appends to `b` exactly a load of `x`, the add or
sub of the loaded value and 1, and the store of the result to `addr`, and
yields the loaded value; nothing else changes (other blocks, environment,
diagnostics, cursor).  On every machine in which the storage holds `v`, the
yielded value is `v` and a subsequent load of `x` yields `v + 1` (resp.
`v - 1`) at 32 bits. -/
theorem C5_postfix_yields_old_value_and_stores_update
    (g : IRGenerator) (x : String) (addr : Value) (b : Nat) (op : String) (binop : BinOp)
    (hop : (op = "++" ∧ binop = .Add) ∨ (op = "--" ∧ binop = .Sub))
    (hx : lookup x g.symbolTable = some addr) (hty : addr.Type = .Pointer .I32)
    (hfresh : ∀ id t, addr = .Inst id t → id < g.nextId)
    (hb : g.currentBB = some b) (hopen : (g.blocks b).term = none) :
    ∃ g', generateExpression (.PostfixExpression (.Identifier x) op) g
        = .ok (some (.Inst g.nextId .I32), g') ∧
      (g'.blocks b).insts = (g.blocks b).insts ++ postfixCode g.nextId binop addr ∧
      (g'.blocks b).term = none ∧
      (∀ c, c ≠ b → g'.blocks c = g.blocks c) ∧
      g'.symbolTable = g.symbolTable ∧ g'.errors = g.errors ∧
      g'.currentBB = g.currentBB ∧ g'.currentFunc = g.currentFunc ∧
      g'.lateWrites = g.lateWrites ∧
      ∀ (m : Machine) (base : Base) (path : List Int) (v : Int) (k : Nat),
        m.eval addr = .ptr base path → m.load base path = .int v →
        (m.run (postfixCode g.nextId binop addr)).eval (.Inst g.nextId .I32) = .int v ∧
        ((m.run (postfixCode g.nextId binop addr)).exec (.Load k .I32 addr)).reg k =
          .int (wrap 32 (if binop = .Add then v + 1 else v - 1)) := by
  have hgen : generateExpression (.PostfixExpression (.Identifier x) op) g
      = generatePostfixExpression (.Identifier x) op g := rfl
  have hsem : ∀ (m : Machine) (base : Base) (path : List Int) (v : Int) (k : Nat),
      m.eval addr = .ptr base path → m.load base path = .int v →
      (m.run (postfixCode g.nextId binop addr)).eval (.Inst g.nextId .I32) = .int v ∧
      ((m.run (postfixCode g.nextId binop addr)).exec (.Load k .I32 addr)).reg k =
        .int (wrap 32 (if binop = .Add then v + 1 else v - 1)) := by
    intro m base path v k haddr hv
    obtain ⟨h1, h2, h3⟩ := postfix_semantics g.nextId binop addr m base path v hfresh haddr hv
    refine ⟨h1, ?_⟩
    simp only [Machine.exec, h2, reg_setReg_same, h3]
    rcases hop with ⟨_, rfl⟩ | ⟨_, rfl⟩ <;> simp [evalBin]
  rw [hgen]
  rcases hop with ⟨rfl, rfl⟩ | ⟨rfl, rfl⟩
  all_goals
    simp [generatePostfixExpression, hx, hb, hty, IRGenerator.NewLoad, IRGenerator.NewBin,
      Bind.bind, Except.bind, pure, Except.pure, Ty.IsInt, postfixCode, hopen]
    refine ⟨?_, ?_⟩
    · intro c hc
      simp [hc]
    · simpa [postfixCode] using hsem

/-- Witness of C5: in a function whose variable `x` holds 5, `x++` yields 5
and a subsequent load of `x` yields 6. -/
theorem C5_postfix_witness :
    (lookup "x" postfixState.symbolTable = some (.Inst 0 (.Pointer .I32)) ∧
      postfixState.currentBB = some 0 ∧ (postfixState.blocks 0).term = none) ∧
    (∃ g', generateExpression (.PostfixExpression (.Identifier "x") "++") postfixState
        = .ok (some (.Inst 1 .I32), g') ∧
      (g'.blocks 0).insts = [.Alloca 0 .I32 "x"] ++ postfixCode 1 .Add (.Inst 0 (.Pointer .I32))) ∧
    (postfixMachine.run (postfixCode 1 .Add (.Inst 0 (.Pointer .I32)))).eval (.Inst 1 .I32)
      = .int 5 ∧
    ((postfixMachine.run (postfixCode 1 .Add (.Inst 0 (.Pointer .I32)))).exec
      (.Load 9 .I32 (.Inst 0 (.Pointer .I32)))).reg 9 = .int 6 := by
  obtain ⟨g', h1, h2, _, _, _, _, _, _, _, hsem⟩ :=
    C5_postfix_yields_old_value_and_stores_update postfixState "x" (.Inst 0 (.Pointer .I32)) 0
      "++" .Add (Or.inl ⟨rfl, rfl⟩) (by decide) rfl
      (by intro id t h; cases h; decide) rfl rfl
  obtain ⟨h5, h6⟩ := hsem postfixMachine (.stack 0) [] 5 9 rfl rfl
  exact ⟨⟨by decide, rfl, rfl⟩, ⟨g', h1, h2⟩, h5, h6⟩

/-- C6, counterexample: in `func f() { switch 1 { case 1: return 5 } }` the
comparison chain reaches the block `switch.case.0.1`, and that block ends in
the `ret` of its body, not in a branch to the end block `switch.end.1`. -/
theorem C6_case_block_ends_in_return :
    (compile switchReturnProgram).map (fun r => (r.2.errors,
      (r.2.blocksOf 0).map fun blk => (blk.name, blk.term)))
      = some ([], [("entry", some (.CondBr (.Inst 0 .I1) 2 3)),
          ("switch.end.1", some (.Ret (.ConstInt .I32 0))),
          ("switch.case.0.1", some (.Ret (.ConstInt .I32 5))),
          ("switch.next.0", some (.Br 1))]) := by
  decide

set_option maxHeartbeats 1600000 in
/-- C6, as the code has it: a tagged switch whose scrutinee and case values
are integer literals, lowered at an existing current block `b` of a
function, the lowering returning.  The end block is the next block of the
module and the case blocks follow it; the cursor ends on the end block,
which is empty and open.  Walking the comparison chain of the resulting
module from `b` (true edge of a conditional branch exactly when the two
compared constants are equal) reaches the block of the first clause, in
source order, that is not a default and lists a value equal to the
scrutinee, else the block of the last default clause, else the end block.
The body of every clause is lowered with the cursor on its case block,
empty and open at that moment; the block `d` in which the body ends (the
case block or a block the body made) has in the resulting module the
instructions the body gave it and the terminator the body gave it, or else
a branch to the end block; and every other block is in the resulting module
as the body left it, the case blocks of later clauses apart: the switch
gives the blocks of a body no other way out than the branch to the end
block. -/
theorem C6_tagged_switch_first_match (t : Int) (cs : List (Bool × List Int × List Statement))
    (g g' : IRGenerator) (b f : Nat)
    (hf : g.currentFunc = some f) (hb : g.currentBB = some b) (hlt : b < g.nblocks)
    (he : generateStatement
      (.SwitchStatement (some (.IntegerLiteral t)) (cs.map literalClause)) g = .ok ((), g')) :
    g'.currentBB = some g.nblocks ∧
      (g'.blocks g.nblocks).insts = [] ∧ (g'.blocks g.nblocks).term = none ∧
      chainWalk g'.blocks (fun c => decide (g.nblocks ≤ c ∧ c ≤ g.nblocks + cs.length))
          ((comparisons (cs.map fun c => (c.1, c.2.1)) 0).length + 1) b
        = some (match firstMatch t (cs.map fun c => (c.1, c.2.1)) 0 with
          | some k => g.nblocks + 1 + k
          | none => (defaultOf (cs.map literalClause) (g.nblocks + 1) none).getD g.nblocks) ∧
      ∀ k (h : k < cs.length), ∃ x y d,
        x.currentBB = some (g.nblocks + 1 + k) ∧
        (x.blocks (g.nblocks + 1 + k)).insts = [] ∧
        (x.blocks (g.nblocks + 1 + k)).term = none ∧
        caseBody (cs.get ⟨k, h⟩).2.2 x = .ok ((), y) ∧ y.currentBB = some d ∧
        (d = g.nblocks + 1 + k ∨ x.nblocks ≤ d) ∧
        (g'.blocks d).insts = (y.blocks d).insts ∧
        (g'.blocks d).term = some ((y.blocks d).term.getD (.Br g.nblocks)) ∧
        ∀ c, c < y.nblocks → c ≠ d →
          (c ≤ g.nblocks + 1 + k ∨ g.nblocks + 1 + cs.length ≤ c) →
          g'.blocks c = y.blocks c := by
  set n0 := g.nblocks with hn0
  set cases := cs.map literalClause with hcases
  set hs := cs.map (fun c : Bool × List Int × List Statement => (c.1, c.2.1)) with hhs
  have hlen : cases.length = cs.length := by simp [hcases]
  have hhl : hs.length = cs.length := by simp [hhs]
  -- the end block and the case blocks
  obtain ⟨g2, h2, hn2, hf2, hb2, he2, -, hfr2, hnew2⟩ :=
    newCaseBlocks_spec f (toString g.nextLabel.labelCounter) cases 0 none
      (g.nextLabel.addBlock f ("switch.end." ++ toString g.nextLabel.labelCounter))
      (by simp [hf])
  simp only [IRGenerator.addBlock_nblocks, IRGenerator.nextLabel_nblocks,
    IRGenerator.addBlock_currentBB, IRGenerator.nextLabel_currentBB,
    IRGenerator.addBlock_errors, IRGenerator.nextLabel_errors, ← hn0, hlen]
    at h2 hn2 hb2 he2 hfr2 hnew2
  have hend2 : (g2.blocks n0).insts = [] ∧ (g2.blocks n0).term = none := by
    rw [hfr2 n0 (Nat.lt_succ_self _)]
    simp [IRGenerator.addBlock, update, ← hn0]
  -- the comparison chain
  obtain ⟨last, g3, h3, hn3, hf3, hb3, he3, hlast, hl3, hfr3, hwalk⟩ :=
    chainFold_walk t (List.range' (n0 + 1) cs.length)
      ((defaultOf cases (n0 + 1) none).getD n0) f
      (fun c => decide (n0 ≤ c ∧ c ≤ n0 + cs.length)) (comparisons hs 0) b g2 hf2
      (by omega)
  have hlastne : ∀ j, j < cs.length → last ≠ n0 + 1 + j := by
    intro j hj; rcases hl3 with h | h <;> omega
  -- the closing branch of the chain and the bodies
  rw [generateStatement_switch_literal] at he
  simp only [hf, Option.isNone_some, Bool.false_eq_true, if_false,
    IRGenerator.nextLabel_currentFunc, NewBlock_some, Bind.bind, Except.bind,
    IRGenerator.nextLabel_nblocks, ← hn0, h2, hb2, hb] at he
  rw [taggedSwitchCases_eq, ← hhs, h3] at he
  simp only [IRGenerator.NewBr, NewTerm_some] at he
  generalize hgc : g3.setTerm last (.Br ((defaultOf cases (n0 + 1) none).getD n0)) = gc at he
  rcases hsb : switchBodies cases 0 (List.range' (n0 + 1) cs.length) n0 gc with err | ⟨u5, g5⟩
  · rw [hsb] at he
    cases he
  rw [hsb] at he
  simp only [pure, Except.pure, Except.ok.injEq, Prod.mk.injEq, true_and] at he
  subst he
  have hgcn : gc.nblocks = g3.nblocks := by
    rw [← hgc]
    rfl
  obtain ⟨hn5, hfr5, hres5⟩ := switchBodies_frame n0 (n0 + 1) (List.range' (n0 + 1) cs.length)
    cases 0 gc g5
    (fun j hj => by
      rw [hlen] at hj
      simp [List.getD_eq_getElem?_getD, List.getElem?_range', hj])
    (by rw [hgcn, hn3, hn2, hlen]; omega) hsb
  rw [hlen] at hfr5
  have hgcb : ∀ c, c ≠ last → gc.blocks c = g3.blocks c := by
    intro c hc
    rw [← hgc]
    simp [update, hc]
  have hchainblk : ∀ c, (c = b ∨ n0 + 1 + cs.length ≤ c) → c < g3.nblocks →
      g5.blocks c = gc.blocks c := by
    intro c hc hc3
    exact hfr5 c (by omega) (by rcases hc with h | h <;> omega)
  refine ⟨rfl, ?_, ?_, ?_, ?_⟩
  · show (g5.blocks n0).insts = []
    rw [hfr5 n0 (by omega) (by omega), hgcb n0 (by rcases hl3 with h | h <;> omega),
      hfr3 n0 (by omega) (by omega)]
    exact hend2.1
  · show (g5.blocks n0).term = none
    rw [hfr5 n0 (by omega) (by omega), hgcb n0 (by rcases hl3 with h | h <;> omega),
      hfr3 n0 (by omega) (by omega)]
    exact hend2.2
  · have htarget : chainTarget t (List.range' (n0 + 1) cs.length)
        ((defaultOf cases (n0 + 1) none).getD n0) (comparisons hs 0)
        = (match firstMatch t hs 0 with
          | some k => n0 + 1 + k
          | none => (defaultOf cases (n0 + 1) none).getD n0) := by
      rw [chainTarget_firstMatch]
      cases hfm : firstMatch t hs 0 with
      | none => rfl
      | some k =>
        have hk := firstMatch_lt t hs 0 k hfm
        have hk' : k < cs.length := by omega
        simp [List.getD_eq_getElem?_getD, List.getElem?_range', hk']
    rw [← htarget]
    have hd : (fun c => decide (n0 ≤ c ∧ c ≤ n0 + cs.length))
        ((defaultOf cases (n0 + 1) none).getD n0) = true := by
      cases hdo : defaultOf cases (n0 + 1) none with
      | none => simp
      | some x =>
        rcases defaultOf_range cases (n0 + 1) none x hdo with h | h
        · cases h
        · simp; omega
    refine hwalk (g5.setCurrentBB (some n0)).blocks ?_ ?_ hd ?_ ?_
    · intro c hc1 hc2 hc3
      show g5.blocks c = _
      rw [hchainblk c (by rcases hc1 with h | h <;> [exact Or.inl h; exact Or.inr (by omega)])
        hc2, hgcb c hc3]
    · show chainStep g5.blocks last = _
      rw [chainStep, hchainblk last (by
        rcases hl3 with h | h <;> [exact Or.inl h; exact Or.inr (by omega)]) hlast, ← hgc]
      simp [Block.close]
    · intro c hc1 hc2
      rcases hc1 with h | h <;> simp <;> omega
    · intro p hp
      have := comparisons_index hs 0 p hp
      simp [List.getD_eq_getElem?_getD, List.getElem?_range', hhl] at this ⊢
      simp [this]; omega
  · intro k hk
    obtain ⟨x, y, d, q1, q2, q3, q4, q5, q6, q7, q8, q9, q10, q11, q12⟩ :=
      hres5 k (by rw [hlen]; exact hk)
    simp only [Nat.add_zero] at q1 q2 q6 q12
    have hcase : gc.blocks (n0 + 1 + k) = g2.blocks (n0 + 1 + k) := by
      rw [hgcb _ (Ne.symm (hlastne k hk)), hfr3 _ (by omega) (by omega)]
    have hopen := hnew2 k hk
    have hbody : (cases.get ⟨k, by rw [hlen]; exact hk⟩).body = (cs.get ⟨k, hk⟩).2.2 := by
      simp [hcases, literalClause_body]
    rw [hbody] at q4
    refine ⟨x, y, d, q1, ?_, ?_, q4, q5, q6, q10, q11, ?_⟩
    · rw [q2, hcase]
      exact hopen.1
    · rw [q2, hcase]
      exact hopen.2
    · intro c hc hne hcc
      exact q12 c hc hne (by rw [hlen]; omega)

/-- C6 at `switch 2 { case 1: return 5; case 2: x := 1; if true { return 2 };
default: }` in an empty entry block: the walk reaches the block of `case 2`,
and the cursor ends on the end block. -/
theorem C6_switch_witness :
    ∃ g', generateStatement
        (.SwitchStatement (some (.IntegerLiteral 2)) (mixedCases.map literalClause)) indexState
        = .ok ((), g') ∧
      g'.currentBB = some 1 ∧
      chainWalk g'.blocks (fun c => decide (1 ≤ c ∧ c ≤ 1 + mixedCases.length)) 3 0
        = some 3 :=
  ⟨_, rfl,
    (C6_tagged_switch_first_match 2 mixedCases indexState _ 0 0 rfl rfl (by decide) rfl).1,
    (C6_tagged_switch_first_match 2 mixedCases indexState _ 0 0 rfl rfl (by decide)
      rfl).2.2.2.1⟩

/-- C7: an index expression on a fixed array of length `N` with an integer
index, lowered inside a function: the block current before the access gets
the three instructions `i <s 0`, `i >=s N`, their disjunction, and a
conditional branch on the disjunction; its true target is a new block
`bounds_panic` holding one call of the function named `panic` on the message
"runtime error: index out of range" and terminated by `unreachable`; its
false target is a new block `bounds_ok`, the new cursor, holding the element
address computation and the load, whose value is returned. -/
theorem C7_index_on_array_is_bounds_checked (left index : Expression) (g g1 g2 : IRGenerator)
    (arr idx : Value) (N : Nat) (et : Ty) (b f : Nat)
    (hcur : g.currentBB.isSome = true)
    (hleft : generateExpression left g = .ok (some arr, g1))
    (hindex : generateExpression index g1 = .ok (some idx, g2))
    (harr : arr.Type = .Pointer (.Array N et)) (hidx : idx.Type.IsInt = true)
    (hb : g2.currentBB = some b) (hlt : b < g2.nblocks) (hf : g2.currentFunc = some f) :
    ∃ g' pf G,
      generateExpression (.IndexExpression left index) g
        = .ok (some (.Inst (g2.nextId + 5) et), g') ∧
      (g'.blocks b).insts
        = (g2.blocks b).insts ++ boundsCheckCode g2.nextId idx (.ConstInt .I32 N) ∧
      (g'.blocks b).term
        = some (.CondBr (.Inst (g2.nextId + 2) .I1) g2.nblocks (g2.nblocks + 1)) ∧
      g'.blocks g2.nblocks = ⟨"bounds_panic",
        [.Call (g2.nextId + 3) (g'.funcValue pf) [.ConstGEP00 boundsPanicMessage.Type G]],
        some .Unreachable⟩ ∧
      (g'.funcs pf).name = "panic" ∧
      (g'.globals G).init = boundsPanicMessage ∧
      g'.blocks (g2.nblocks + 1)
        = ⟨"bounds_ok", indexCode (g2.nextId + 4) N et arr idx, none⟩ ∧
      g'.currentBB = some (g2.nblocks + 1) ∧
      g'.errors = g2.errors := by
  obtain ⟨g3, pf, G, hbc, h1, h2, h3, h4, h5, -, h7, h8, h9, h10, h11⟩ :=
    boundsCheck_shape g2 idx (.ConstInt .I32 N) b f hb hlt hf hidx
  have hcur' : g.currentBB.isNone = false := by
    cases h : g.currentBB <;> simp_all
  have hne : ¬ b = g2.nblocks + 1 := by omega
  have hne' : ¬ g2.nblocks = g2.nblocks + 1 := by omega
  refine ⟨((g3.emit (g2.nblocks + 1) (.GetElementPtr (g2.nextId + 4) (.Array N et) arr
      [.ConstInt .I32 0, idx])).fresh.emit (g2.nblocks + 1)
      (.Load (g2.nextId + 5) et (.Inst (g2.nextId + 4) (.Pointer et)))).fresh, pf, G, ?_, ?_, ?_, ?_, ?_, ?_, ?_, ?_, ?_⟩
  · rw [generateExpression_index]
    simp [hcur', hleft, hindex, Bind.bind, Except.bind, indexAccess, hidx, harr, hbc, h8,
      IRGenerator.NewGetElementPtr, IRGenerator.NewLoad, asResult, h10, gepElem]
  · simp [hne, h1]
  · simp [hne, h1]
  · simp [hne', h2, IRGenerator.funcValue]
  · simpa using h3
  · simpa using h4
  · simp [h5, indexCode, Block.push]
  · simp [h8]
  · simpa using h11

/-- C7 at `[1, 2, 3][5]` in an empty entry block. -/
theorem C7_index_witness :
    ∃ g' pf G,
      generateExpression (.IndexExpression arrayOperand (.IntegerLiteral 5)) indexState
        = .ok (some (.Inst (arrayOperandState.nextId + 5) .I32), g') ∧
      (g'.blocks 0).insts
        = (arrayOperandState.blocks 0).insts ++
          boundsCheckCode arrayOperandState.nextId (.ConstInt .I32 5) (.ConstInt .I32 3) ∧
      (g'.blocks 0).term
        = some (.CondBr (.Inst (arrayOperandState.nextId + 2) .I1) arrayOperandState.nblocks
            (arrayOperandState.nblocks + 1)) ∧
      g'.blocks arrayOperandState.nblocks = ⟨"bounds_panic",
        [.Call (arrayOperandState.nextId + 3) (g'.funcValue pf)
          [.ConstGEP00 boundsPanicMessage.Type G]],
        some .Unreachable⟩ ∧
      (g'.funcs pf).name = "panic" ∧
      (g'.globals G).init = boundsPanicMessage ∧
      g'.blocks (arrayOperandState.nblocks + 1)
        = ⟨"bounds_ok", indexCode (arrayOperandState.nextId + 4) 3 .I32
            (.Inst 0 (.Pointer (.Array 3 .I32))) (.ConstInt .I32 5), none⟩ ∧
      g'.currentBB = some (arrayOperandState.nblocks + 1) ∧
      g'.errors = arrayOperandState.errors :=
  C7_index_on_array_is_bounds_checked arrayOperand (.IntegerLiteral 5) indexState
    arrayOperandState arrayOperandState (.Inst 0 (.Pointer (.Array 3 .I32))) (.ConstInt .I32 5)
    3 .I32 0 0 rfl rfl rfl rfl rfl rfl (by decide) rfl

/-- C8: `append(s, e1, ..., ek)` on a slice (an aggregate as `make` builds
it, of type `sliceStruct et`) whose length and capacity fields
hold `L` and `C`, without 32-bit overflow (`0 <= L`, `0 <= C`,
`L + k < 2^31`, `2 * C < 2^31`): the current block gets the head code and a
conditional branch on `L + k > C` to the block `realloc`, the only place
where the capacity field is written (the head code leaves `C` in it),
which stores `2 * C` when `2 * C >= L + k` and `L + k` otherwise; the code
after the element stores writes `L + k` into the length field and branches
to `append_end`. -/
theorem C8_append_length_and_capacity
    (a0 a1 : Expression) (rest : List Expression) (g g1 g3 g4 : IRGenerator)
    (r : Value × Value × Value × Nat) (sliceArg : Value) (st et : Ty) (b f b4 : Nat)
    (m : Machine) (base : Base) (path : List Int) (L C : Int)
    (hcur : g.currentBB.isSome = true)
    (hslice : generateExpression a0 g = .ok (some sliceArg, g1))
    (hty : sliceArg.Type = .Pointer st) (het : sliceElementType st = some et)
    (hst : st = sliceStruct et)
    (hb : g1.currentBB = some b) (hlt : b < g1.nblocks) (hf : g1.currentFunc = some f)
    (hpro : appendPrologue (rest.length + 1) sliceArg st g1 = .ok (r, g3))
    (helems : appendElements (a1 :: rest) 0 (.Inst (g1.nextId + 1) .I32) sliceArg st et g3
      = .ok ((), g4))
    (hb4 : g4.currentBB = some b4)
    (hfresh : ∀ id t, sliceArg = .Inst id t → id < g1.nextId)
    (hptr : m.eval sliceArg = .ptr base path)
    (hL : m.load base (path ++ [1]) = .int L) (hC : m.load base (path ++ [2]) = .int C)
    (hL0 : 0 ≤ L) (hC0 : 0 ≤ C) (hlen : L + (rest.length + 1 : Nat) < 2 ^ 31)
    (hcap : 2 * C < 2 ^ 31) :
    ∃ g', generateExpression (.CallExpression (.Identifier "append") (a0 :: a1 :: rest)) g
        = .ok (some sliceArg, g') ∧
      (g3.blocks b).insts
        = (g1.blocks b).insts ++ appendHead g1.nextId st sliceArg (rest.length + 1) ∧
      (g3.blocks b).term
        = some (.CondBr (.Inst (g1.nextId + 5) .I1) g1.nblocks (g1.nblocks + 1)) ∧
      g3.blocks g1.nblocks
        = ⟨"realloc", appendGrow g1.nextId st, some (.Br (g1.nblocks + 1))⟩ ∧
      g3.currentBB = some (g1.nblocks + 1) ∧
      (g'.blocks b4).insts = (g4.blocks b4).insts ++ [appendStoreLen g1.nextId st] ∧
      (g'.blocks b4).term = some (.Br (g1.nblocks + 2)) ∧
      g'.currentBB = some (g1.nblocks + 2) ∧
      (m.run (appendHead g1.nextId st sliceArg (rest.length + 1))).reg (g1.nextId + 5)
        = .int (if L + (rest.length + 1 : Nat) > C then 1 else 0) ∧
      ((m.run (appendHead g1.nextId st sliceArg (rest.length + 1))).run
          (appendGrow g1.nextId st)).load base (path ++ [2])
        = .int (if 2 * C ≥ L + (rest.length + 1 : Nat) then 2 * C
            else L + (rest.length + 1 : Nat)) ∧
      ((m.run (appendHead g1.nextId st sliceArg (rest.length + 1))).exec
          (appendStoreLen g1.nextId st)).load base (path ++ [1])
        = .int (L + (rest.length + 1 : Nat)) ∧
      (((m.run (appendHead g1.nextId st sliceArg (rest.length + 1))).run
          (appendGrow g1.nextId st)).exec
          (appendStoreLen g1.nextId st)).load base (path ++ [1])
        = .int (L + (rest.length + 1 : Nat)) ∧
      (m.run (appendHead g1.nextId st sliceArg (rest.length + 1))).load base (path ++ [2])
        = .int C := by
  obtain ⟨g3', hpro', s1, s2, s3, -, -, s6, -⟩ :=
    appendPrologue_shape (rest.length + 1) sliceArg st et g1 b f hb hlt hf hst
  rw [hpro] at hpro'
  injection hpro' with hpro'
  injection hpro' with hr hg
  subst hg
  subst hr
  obtain ⟨g', hepi, e1, e2, e3, -⟩ := appendEpilogue_shape (.Inst g1.nextId (fieldPtr st 1))
    (.Inst (g1.nextId + 4) .I32) (g1.nblocks + 2) g4 b4 hb4 (by rw [hst]; rfl)
  obtain ⟨m1, m2, m3, m4, m5, m6⟩ := appendHead_semantics m g1.nextId st sliceArg
    (rest.length + 1) base path L C hfresh hptr hL hC
  have hk : wrap 32 ((rest.length + 1 : Nat) : Int) = ((rest.length + 1 : Nat) : Int) :=
    wrap_of_range _ (by omega) (by omega)
  have hn : wrap 32 (L + ((rest.length + 1 : Nat) : Int)) = L + ((rest.length + 1 : Nat) : Int) :=
    wrap_of_range _ (by omega) (by omega)
  have hd : wrap 32 (C * 2) = 2 * C := by
    rw [wrap_of_range _ (by omega) (by omega)]; ring
  rw [hk, hn] at m4 m5
  obtain ⟨q1, q2, q3⟩ := appendGrow_semantics _ g1.nextId st base path C _ m2 m3 m4
  have hcur' : g.currentBB.isNone = false := by
    cases h : g.currentBB <;> simp_all
  refine ⟨g', ?_, s1, s2, s3, s6, e1, e2, e3, ?_, ?_, ?_, ?_, (m6 _ _).trans hC⟩
  · rw [generateExpression_append, generateAppendCall_cons]
    simp [hcur', hslice, hty, het, hpro, helems, hepi, Bind.bind, Except.bind, pure, Except.pure]
  · rw [m5]
  · rw [q1, hd]
    by_cases h : 2 * C < L + ((rest.length + 1 : Nat) : Int)
    · rw [if_pos h, if_neg (by omega)]
    · rw [if_neg h, if_pos (by omega)]
  · exact appendStoreLen_semantics _ _ _ _ _ _ m1 m4
  · exact appendStoreLen_semantics _ _ _ _ _ _ (q2.trans m1) q3

/-- C8 at `append(make([]int, 2, 2), 7)`: `L = 2`, `C = 2`, `k = 1` give
length 3 and capacity 4. -/
theorem C8_append_witness :
    ∃ g', generateExpression
        (.CallExpression (.Identifier "append") [sliceOperand, .IntegerLiteral 7]) indexState
        = .ok (some sliceValue, g') ∧
      (sliceHeadState.blocks 0).insts
        = (sliceState.blocks 0).insts ++ appendHead 6 (sliceStruct .I32) sliceValue 1 ∧
      (sliceHeadState.blocks 0).term = some (.CondBr (.Inst 11 .I1) 1 2) ∧
      sliceHeadState.blocks 1
        = ⟨"realloc", appendGrow 6 (sliceStruct .I32), some (.Br 2)⟩ ∧
      sliceHeadState.currentBB = some 2 ∧
      (g'.blocks 2).insts
        = (sliceElementsState.blocks 2).insts ++ [appendStoreLen 6 (sliceStruct .I32)] ∧
      (g'.blocks 2).term = some (.Br 3) ∧
      g'.currentBB = some 3 ∧
      (sliceMachine.run (appendHead 6 (sliceStruct .I32) sliceValue 1)).reg 11 = .int 1 ∧
      ((sliceMachine.run (appendHead 6 (sliceStruct .I32) sliceValue 1)).run
          (appendGrow 6 (sliceStruct .I32))).load (.stack 0) [2] = .int 4 ∧
      ((sliceMachine.run (appendHead 6 (sliceStruct .I32) sliceValue 1)).exec
          (appendStoreLen 6 (sliceStruct .I32))).load (.stack 0) [1] = .int 3 ∧
      (((sliceMachine.run (appendHead 6 (sliceStruct .I32) sliceValue 1)).run
          (appendGrow 6 (sliceStruct .I32))).exec
          (appendStoreLen 6 (sliceStruct .I32))).load (.stack 0) [1] = .int 3 ∧
      (sliceMachine.run (appendHead 6 (sliceStruct .I32) sliceValue 1)).load (.stack 0) [2]
        = .int 2 :=
  C8_append_length_and_capacity sliceOperand (.IntegerLiteral 7) [] indexState sliceState
    sliceHeadState sliceElementsState
    (.Inst 6 (fieldPtr (sliceStruct .I32) 1), .Inst 7 .I32, .Inst 10 .I32, 3)
    sliceValue (sliceStruct .I32) .I32 0 0 2 sliceMachine (.stack 0) [] 2 2
    rfl rfl rfl rfl rfl rfl (by decide) rfl rfl rfl rfl
    (by intro id t h; cases h; decide) rfl rfl rfl (by decide) (by decide) (by decide)
    (by decide)

/-- C9: for all values `L` and `C` of the length and capacity fields of a
slice (an aggregate as `make` builds it, of type `sliceStruct et`) and
every `k >= 1`, with the emitted add and multiply wrapping modulo `2^32`:
the value `len` that `append` stores into the length field and the value
`cap` of the capacity field on entry to the block `append` (after the block
`realloc` when `len > C`, untouched otherwise) satisfy `len <= cap`. -/
theorem C9_append_length_within_capacity
    (a0 a1 : Expression) (rest : List Expression) (g g1 g3 g4 : IRGenerator)
    (r : Value × Value × Value × Nat) (sliceArg : Value) (st et : Ty) (b f b4 : Nat)
    (m : Machine) (base : Base) (path : List Int) (L C : Int)
    (hcur : g.currentBB.isSome = true)
    (hslice : generateExpression a0 g = .ok (some sliceArg, g1))
    (hty : sliceArg.Type = .Pointer st) (het : sliceElementType st = some et)
    (hst : st = sliceStruct et)
    (hb : g1.currentBB = some b) (hlt : b < g1.nblocks) (hf : g1.currentFunc = some f)
    (hpro : appendPrologue (rest.length + 1) sliceArg st g1 = .ok (r, g3))
    (helems : appendElements (a1 :: rest) 0 (.Inst (g1.nextId + 1) .I32) sliceArg st et g3
      = .ok ((), g4))
    (hb4 : g4.currentBB = some b4)
    (hfresh : ∀ id t, sliceArg = .Inst id t → id < g1.nextId)
    (hptr : m.eval sliceArg = .ptr base path)
    (hL : m.load base (path ++ [1]) = .int L) (hC : m.load base (path ++ [2]) = .int C) :
    ∃ g' len cap, generateExpression
        (.CallExpression (.Identifier "append") (a0 :: a1 :: rest)) g
        = .ok (some sliceArg, g') ∧
      (g3.blocks b).insts
        = (g1.blocks b).insts ++ appendHead g1.nextId st sliceArg (rest.length + 1) ∧
      (g3.blocks b).term
        = some (.CondBr (.Inst (g1.nextId + 5) .I1) g1.nblocks (g1.nblocks + 1)) ∧
      g3.blocks g1.nblocks
        = ⟨"realloc", appendGrow g1.nextId st, some (.Br (g1.nblocks + 1))⟩ ∧
      g3.currentBB = some (g1.nblocks + 1) ∧
      (g'.blocks b4).insts = (g4.blocks b4).insts ++ [appendStoreLen g1.nextId st] ∧
      (g'.blocks b4).term = some (.Br (g1.nblocks + 2)) ∧
      g'.currentBB = some (g1.nblocks + 2) ∧
      (m.run (appendHead g1.nextId st sliceArg (rest.length + 1))).reg (g1.nextId + 5)
        = .int (if len > C then 1 else 0) ∧
      ((if len > C then
          (m.run (appendHead g1.nextId st sliceArg (rest.length + 1))).run
            (appendGrow g1.nextId st)
        else m.run (appendHead g1.nextId st sliceArg (rest.length + 1))).exec
          (appendStoreLen g1.nextId st)).load base (path ++ [1]) = .int len ∧
      (if len > C then
          (m.run (appendHead g1.nextId st sliceArg (rest.length + 1))).run
            (appendGrow g1.nextId st)
        else m.run (appendHead g1.nextId st sliceArg (rest.length + 1))).load base
          (path ++ [2]) = .int cap ∧
      len ≤ cap := by
  obtain ⟨g3', hpro', s1, s2, s3, -, -, s6, -⟩ :=
    appendPrologue_shape (rest.length + 1) sliceArg st et g1 b f hb hlt hf hst
  rw [hpro] at hpro'
  injection hpro' with hpro'
  injection hpro' with hr hg
  subst hg
  subst hr
  obtain ⟨g', hepi, e1, e2, e3, -⟩ := appendEpilogue_shape (.Inst g1.nextId (fieldPtr st 1))
    (.Inst (g1.nextId + 4) .I32) (g1.nblocks + 2) g4 b4 hb4 (by rw [hst]; rfl)
  obtain ⟨m1, m2, m3, m4, m5, m6⟩ := appendHead_semantics m g1.nextId st sliceArg
    (rest.length + 1) base path L C hfresh hptr hL hC
  obtain ⟨q1, q2, q3⟩ := appendGrow_semantics _ g1.nextId st base path C _ m2 m3 m4
  have hcur' : g.currentBB.isNone = false := by
    cases h : g.currentBB <;> simp_all
  have hcall : generateExpression
      (.CallExpression (.Identifier "append") (a0 :: a1 :: rest)) g
      = .ok (some sliceArg, g') := by
    rw [generateExpression_append, generateAppendCall_cons]
    simp [hcur', hslice, hty, het, hpro, helems, hepi, Bind.bind, Except.bind, pure, Except.pure]
  generalize wrap 32 (L + wrap 32 ((rest.length + 1 : Nat) : Int)) = len at m4 m5 q1 q3
  generalize wrap 32 (C * 2) = double at q1
  by_cases h : len > C
  · refine ⟨g', len, if double < len then len else double, hcall, s1, s2, s3, s6, e1, e2, e3,
      m5, ?_, ?_, ?_⟩
    · rw [if_pos h]
      exact appendStoreLen_semantics _ _ _ _ _ _ (q2.trans m1) q3
    · rw [if_pos h]
      exact q1
    · split <;> omega
  · refine ⟨g', len, C, hcall, s1, s2, s3, s6, e1, e2, e3, m5, ?_, ?_, ?_⟩
    · rw [if_neg h]
      exact appendStoreLen_semantics _ _ _ _ _ _ m1 m4
    · rw [if_neg h]
      exact (m6 _ _).trans hC
    · omega

/-- C9 at `append(make([]int, 2147483647, 2147483647), 7)`, where the new
length wraps around. -/
theorem C9_append_witness :
    ∃ g' len cap, generateExpression
        (.CallExpression (.Identifier "append") [fullSliceOperand, .IntegerLiteral 7])
        indexState = .ok (some sliceValue, g') ∧
      (fullSliceHeadState.blocks 0).insts
        = (fullSliceState.blocks 0).insts ++ appendHead 6 (sliceStruct .I32) sliceValue 1 ∧
      (fullSliceHeadState.blocks 0).term = some (.CondBr (.Inst 11 .I1) 1 2) ∧
      fullSliceHeadState.blocks 1
        = ⟨"realloc", appendGrow 6 (sliceStruct .I32), some (.Br 2)⟩ ∧
      fullSliceHeadState.currentBB = some 2 ∧
      (g'.blocks 2).insts
        = (fullSliceElementsState.blocks 2).insts ++ [appendStoreLen 6 (sliceStruct .I32)] ∧
      (g'.blocks 2).term = some (.Br 3) ∧
      g'.currentBB = some 3 ∧
      (fullSliceMachine.run (appendHead 6 (sliceStruct .I32) sliceValue 1)).reg 11
        = .int (if len > 2147483647 then 1 else 0) ∧
      ((if len > 2147483647 then
          (fullSliceMachine.run (appendHead 6 (sliceStruct .I32) sliceValue 1)).run
            (appendGrow 6 (sliceStruct .I32))
        else fullSliceMachine.run (appendHead 6 (sliceStruct .I32) sliceValue 1)).exec
          (appendStoreLen 6 (sliceStruct .I32))).load (.stack 0) [1] = .int len ∧
      (if len > 2147483647 then
          (fullSliceMachine.run (appendHead 6 (sliceStruct .I32) sliceValue 1)).run
            (appendGrow 6 (sliceStruct .I32))
        else fullSliceMachine.run (appendHead 6 (sliceStruct .I32) sliceValue 1)).load
          (.stack 0) [2] = .int cap ∧
      len ≤ cap :=
  C9_append_length_within_capacity fullSliceOperand (.IntegerLiteral 7) [] indexState
    fullSliceState fullSliceHeadState fullSliceElementsState
    (.Inst 6 (fieldPtr (sliceStruct .I32) 1), .Inst 7 .I32, .Inst 10 .I32, 3)
    sliceValue (sliceStruct .I32) .I32 0 0 2 fullSliceMachine (.stack 0) [] 2147483647
    2147483647 rfl rfl rfl rfl rfl rfl (by decide) rfl rfl rfl rfl
    (by intro id t h; cases h; decide) rfl rfl rfl

/-- C10, counterexample: `make([]int, 5, 3)` lowers without a diagnostic and
the emitted code leaves 5 in the length field and 3 in the capacity field of
the new aggregate, so the stored length exceeds the stored capacity. -/
theorem C10_make_length_above_capacity :
    (compile makeProgram).map (fun r => (r.2.errors,
      ((Machine.mk [] []).run (r.2.blocks 0).insts).load (.stack 0) [1],
      ((Machine.mk [] []).run (r.2.blocks 0).insts).load (.stack 0) [2]))
      = some ([], .int 5, .int 3) := by
  decide

/-- C10, as the code has it: a call `make([]T, n)` or `make([]T, n, c)` with
integer literals, lowered at a current block, reports no diagnostic and
emits the nine instructions of `makeCode`, which store the literal `n` into
the length field and the literal `c` into the capacity field as written, as
32-bit values (`n` into both when the capacity is omitted); no comparison of
`n` and `c` is made.  So the stored length `len` is the 32-bit value of `n`,
the stored capacity `cap` the 32-bit value of `c`, they are equal when the
capacity is omitted, and for literals within the 32-bit range `len <= cap`
holds exactly when `n <= c`. -/
theorem C10_make_stores_arguments_as_written (T : Expression) (n : Int) (c : Option Int)
    (g : IRGenerator) (b : Nat) (m : Machine) (hb : g.currentBB = some b) :
    ∃ g', generateExpression (makeCall T n c) g
        = .ok (some (.Inst g.nextId (.Pointer (sliceStruct (makeElementType T g)))), g') ∧
      g'.errors = g.errors ∧
      (g'.blocks b).insts = (g.blocks b).insts ++
        makeCode g.nextId (makeElementType T g) (.ConstInt .I32 n) (.ConstInt .I32 (c.getD n)) ∧
      (m.run (makeCode g.nextId (makeElementType T g) (.ConstInt .I32 n)
        (.ConstInt .I32 (c.getD n)))).load (.stack g.nextId) [1] = .int (wrap 32 n) ∧
      (m.run (makeCode g.nextId (makeElementType T g) (.ConstInt .I32 n)
        (.ConstInt .I32 (c.getD n)))).load (.stack g.nextId) [2] = .int (wrap 32 (c.getD n)) ∧
      ∃ len cap : Int,
        (m.run (makeCode g.nextId (makeElementType T g) (.ConstInt .I32 n)
          (.ConstInt .I32 (c.getD n)))).load (.stack g.nextId) [1] = .int len ∧
        (m.run (makeCode g.nextId (makeElementType T g) (.ConstInt .I32 n)
          (.ConstInt .I32 (c.getD n)))).load (.stack g.nextId) [2] = .int cap ∧
        (c = none → len = cap) ∧
        (len ≤ cap ↔ wrap 32 n ≤ wrap 32 (c.getD n)) ∧
        (-2 ^ 31 ≤ n → n < 2 ^ 31 → -2 ^ 31 ≤ c.getD n → c.getD n < 2 ^ 31 →
          (len ≤ cap ↔ n ≤ c.getD n)) := by
  obtain ⟨g', h, hi, he, -⟩ := makeSlice_shape (makeElementType T g) (.ConstInt .I32 n)
    (.ConstInt .I32 (c.getD n)) g b hb rfl rfl
  have hsem := makeCode_semantics m g.nextId (makeElementType T g) n (c.getD n)
  refine ⟨g', ?_, he, hi, hsem.1, hsem.2, wrap 32 n, wrap 32 (c.getD n), hsem.1, hsem.2, ?_,
    Iff.rfl, ?_⟩
  · cases c with
    | none =>
      rw [makeCall, generateExpression_make]
      simpa [generateMakeCall_length, hb] using h
    | some c =>
      rw [makeCall, generateExpression_make]
      simpa [generateMakeCall_capacity, hb] using h
  · intro hc
    rw [hc]
    rfl
  · intro h1 h2 h3 h4
    rw [wrap_of_range n h1 h2, wrap_of_range (c.getD n) h3 h4]

/-- C10 at `make([]int, 5, 3)` in an empty entry block. -/
theorem C10_make_witness :
    (indexState.currentBB = some 0) ∧
    ∃ g', generateExpression (makeCall (.Identifier "int") 5 (some 3)) indexState
        = .ok (some (.Inst indexState.nextId
            (.Pointer (sliceStruct (makeElementType (.Identifier "int") indexState)))), g') ∧
      g'.errors = indexState.errors ∧
      (g'.blocks 0).insts = (indexState.blocks 0).insts ++
        makeCode indexState.nextId (makeElementType (.Identifier "int") indexState)
          (.ConstInt .I32 5) (.ConstInt .I32 ((some 3 : Option Int).getD 5)) :=
  ⟨rfl,
    (C10_make_stores_arguments_as_written (.Identifier "int") 5 (some 3) indexState 0
      ⟨[], []⟩ rfl).imp fun _ h => ⟨h.1, h.2.1, h.2.2.1⟩⟩

/-- C11 (defect in the code).  On the programs `func f() { len("abc") }`
and `func f() { cap("abc") }` the generator does not return: the operand has
type pointer-to-byte, which is no pointer to an array, so `generateLenCall`
and `generateCapCall` take their slice branch and ask for the address of
field 1, and of field 2, of a byte; the constructor of that instruction
panics.  No diagnostic reaches the caller and no nil value is returned. -/
theorem C11_len_of_string_panics :
    panicOf (GenerateProgram lenOfStringProgram New)
      = some "cannot index into type *types.IntType using gep" ∧
    panicOf (GenerateProgram capOfStringProgram New)
      = some "cannot index into type *types.IntType using gep" := by
  decide

/-- C12.  A call of `len` or `cap` with no argument or with two or more, of
`append` with none or one, of `make` with none or with four or more, and of
`make` on a slice type alone, leaves the generator as it was except for one
appended diagnostic, and yields no value: no argument is lowered, nothing is
emitted, cursor and environment are unchanged. -/
theorem C12_wrong_arity_reports_one_diagnostic (a b c d T : Expression)
    (rest : List Expression) (g : IRGenerator) :
    generateExpression (callOf "len" []) g
      = .ok (none, g.ReportError "len() fonksiyonu tam olarak 1 argüman alır, 0 verildi") ∧
    generateExpression (callOf "len" (a :: b :: rest)) g
      = .ok (none, g.ReportError ("len() fonksiyonu tam olarak 1 argüman alır, " ++
          toString (a :: b :: rest).length ++ " verildi")) ∧
    generateExpression (callOf "cap" []) g
      = .ok (none, g.ReportError "cap() fonksiyonu tam olarak 1 argüman alır, 0 verildi") ∧
    generateExpression (callOf "cap" (a :: b :: rest)) g
      = .ok (none, g.ReportError ("cap() fonksiyonu tam olarak 1 argüman alır, " ++
          toString (a :: b :: rest).length ++ " verildi")) ∧
    generateExpression (callOf "append" []) g
      = .ok (none, g.ReportError "append() fonksiyonu en az 2 argüman alır, 0 verildi") ∧
    generateExpression (callOf "append" [a]) g
      = .ok (none, g.ReportError ("append() fonksiyonu en az 2 argüman alır, " ++
          toString [a].length ++ " verildi")) ∧
    generateExpression (callOf "make" []) g
      = .ok (none, g.ReportError "make() fonksiyonu 1-3 argüman alır, 0 verildi") ∧
    generateExpression (callOf "make" (a :: b :: c :: d :: rest)) g
      = .ok (none, g.ReportError ("make() fonksiyonu 1-3 argüman alır, " ++
          toString ((b :: c :: d :: rest).length + 1) ++ " verildi")) ∧
    generateExpression (callOf "make" [.ArrayType none T]) g
      = .ok (none, g.ReportError (if g.currentBB.isNone then
          "Geçerli bir blok yok, make() çağrısı yapılamıyor"
        else "make() slice için length argümanı gerekli")) := by
  refine ⟨rfl, rfl, rfl, rfl, rfl, rfl, rfl, ?_, ?_⟩
  · show generateMakeCall (a :: b :: c :: d :: rest) g = _
    rw [generateMakeCall_cons, if_pos (by simp)]
    rfl
  · show generateMakeCall [.ArrayType none T] g = _
    rw [generateMakeCall_cons, if_neg (by simp)]
    cases h : g.currentBB <;> rfl

/-- C13.  On a fresh generator, a program of `n >= 1` top-level expression
statements that are identifiers returns no module, and the diagnostics are
exactly the `n` messages for the unbound names, in source order. -/
theorem C13_unbound_identifiers_one_diagnostic_each (first : String) (rest : List String) :
    ∃ g', GenerateProgram ((first :: rest).map identifierStatement) New = .ok (none, g') ∧
      g'.errors = (first :: rest).map unboundMessage ∧
      g'.errors.length = rest.length + 1 := by
  obtain ⟨g1, h1, h2, -, -⟩ := generateStatements_unbound (first :: rest)
    (defineBasicTypes New.resetModule) rfl
  have he : g1.errors = (first :: rest).map unboundMessage := by
    rw [h2]; rfl
  obtain ⟨g2, h3, h4⟩ := GenerateProgram_lowered _ New g1 rfl h1
  refine ⟨g2, ?_, h4.trans he, by simp [h4, he]⟩
  rw [h3, if_neg (by simp [he])]

/-- C14 (defect in the code).  On the program
`func f() { a := [1, 2, 3]; switch 1 { case a[0]: } }` the error list is
empty after all top-level statements have been lowered, and the module has
the block `bounds_ok` without a terminator; `GenerateProgram` then returns
neither the module nor an error: printing the module panics at that
block. -/
theorem C14_no_diagnostic_and_no_module :
    (match generateStatements switchOnIndexProgram (defineBasicTypes New.resetModule) with
      | .ok (_, g) => some (g.errors, (openBlocks g g.module).map (·.name))
      | .error _ => none) = some ([], ["bounds_ok"]) ∧
    panicOf (GenerateProgram switchOnIndexProgram New)
      = some "missing terminator in basic block bounds_ok" := by
  decide

/-- C15 (defect in the code).  On the program `func f() { x := 1 }` a fresh
generator returns the module without any diagnostic; a second run of the
same program on that generator returns no module and reports that `x` is
already defined. -/
theorem C15_second_run_differs_from_fresh_run :
    (runOn New shortDeclProgram).map (fun r => (r.1, (runOn r.2 shortDeclProgram).map (·.1)))
      = some ((true, []), some (false, ["Değişken zaten tanımlı: x"])) := by
  decide

/-- C16, counterexample: the expression `if true { }` lowered in an empty
entry block yields no value and leaves the list of diagnostics empty. -/
theorem C16_if_expression_yields_nothing_unreported :
    (match generateExpression emptyIf indexState with
      | .ok (r, g') => some (r, g'.errors)
      | .error _ => none) = some (none, []) := by
  decide

/-- C16, as the code has it: for every expression in which no if-expression
stands in a position whose missing value is passed on (`passesNil`), and for
every generator state, when `generateExpression` returns no value the list
of diagnostics afterwards is the list before followed by at least one new
diagnostic.  Every node kind of the type switch is covered; the four kinds
lowered outside `irgen.go` enter under the contract of
`ExternalExpression` (diagnostics are only appended, and a missing value is
reported). -/
theorem C16_missing_value_means_diagnostic (e : Expression) (g g' : IRGenerator)
    (hp : passesNil e = false) (h : generateExpression e g = .ok (none, g')) :
    ∃ msg rest, g'.errors = g.errors ++ msg :: rest := by
  have hs : g.errors.length < g'.errors.length :=
    (nilOK_of_size (sizeOf e) e (Nat.le_refl _) hp).strict h
  obtain ⟨t, ht⟩ := (generateExpression_grows e g g' none h).errors
  rcases t with _ | ⟨msg, rest⟩
  · rw [← ht] at hs
    simp at hs
  · exact ⟨msg, rest, ht.symm⟩

/-- C16 at the unbound identifier `a` on a fresh generator. -/
theorem C16_missing_value_witness :
    ∃ msg rest, (New.ReportError ("Tanımlanmamış tanımlayıcı: " ++ "a")).errors
      = New.errors ++ msg :: rest :=
  C16_missing_value_means_diagnostic (.Identifier "a") New _ rfl rfl

/-- C17 (defect in the code).  On the program `func f()` (a declaration
without a body) a fresh generator returns the module without any diagnostic,
and the same generator with debug metadata enabled does not return: the
position of the end of the absent body is read. -/
theorem C17_debug_flag_fails_on_declaration :
    (runOn New declarationProgram).map (·.1) = some (true, []) ∧
    (runOn { New with generateDebug := true } declarationProgram).map (·.1) = none := by
  decide

/-- C18 (defect in the code).  On the program
`func f() { var x = 1; var y = x }` the generator does not return: the slot
of `y` is allocated with element type pointer-to-i32 (the type of the slot
of `x`), the value to store is the 32-bit integer loaded from `x`, and the
constructor of the store panics on the two types. -/
theorem C18_store_into_slot_of_other_type :
    panicOf (GenerateProgram varFromIdentifierProgram New)
      = some "store operands are not compatible: src=i32; dst=i32**" := by
  decide

/-- C19 (defect in the code).  On the program `var x float64 = 5` the
generator returns the module without any diagnostic; the one global `x` has
content type double and its initializer is the 32-bit integer constant 5,
no floating-point constant.  On `var x int64 = 5` the initializer of the
i64 global is the 32-bit constant 5 likewise. -/
theorem C19_global_initializer_of_other_type :
    (compile globalFloat64Program).map
        (fun r => (r.2.errors, r.1.globals.map r.2.globals, r.2.symbolTable))
      = some ([], [⟨"x", .Double, .ConstInt .I32 5⟩], [("x", .Global 0 .Double)]) ∧
    (compile globalInt64Program).map
        (fun r => (r.2.errors, r.1.globals.map r.2.globals, r.2.symbolTable))
      = some ([], [⟨"x", .I64, .ConstInt .I32 5⟩], [("x", .Global 0 .I64)]) := by
  decide

/-- C20.  For `x := e`: when `x` is bound in the environment, lowering
leaves the generator as it was except for one appended diagnostic and yields
no value.  When `x` is unbound and `e` lowers to `v` leaving the cursor at
block `b` of a function, lowering appends to `b` a stack slot of the type of
`v` named `x` and the store of `v` into it, binds `x` to the slot, yields `v`
and changes no other block, no diagnostic and not the cursor. -/
theorem C20_short_declaration (x : String) (e : Expression) (g : IRGenerator) :
    ((lookup x g.symbolTable).isSome = true →
      generateExpression (shortDecl x e) g
        = .ok (none, g.ReportError ("Değişken zaten tanımlı: " ++ x))) ∧
    (lookup x g.symbolTable = none →
      ∀ (v : Value) (g1 : IRGenerator) (f b : Nat),
        generateExpression e g = .ok (some v, g1) →
        g1.currentFunc = some f → g1.currentBB = some b →
        ∃ g', generateExpression (shortDecl x e) g = .ok (some v, g') ∧
          (g'.blocks b).insts = (g1.blocks b).insts ++ shortDeclCode g1.nextId x v ∧
          (g'.blocks b).term = (g1.blocks b).term ∧
          (∀ c, c ≠ b → g'.blocks c = g1.blocks c) ∧
          g'.symbolTable = assign x (.Inst g1.nextId (.Pointer v.Type)) g1.symbolTable ∧
          lookup x g'.symbolTable = some (.Inst g1.nextId (.Pointer v.Type)) ∧
          g'.errors = g1.errors ∧ g'.currentFunc = some f ∧ g'.currentBB = some b ∧
          g'.nblocks = g1.nblocks) := by
  constructor
  · intro h
    rw [generateExpression_shortDecl, if_pos h]
    rfl
  · intro h v g1 f b hv hf hb
    refine ⟨((g1.emit b (.Alloca g1.nextId v.Type x)).fresh.bindSymbol x
        (.Inst g1.nextId (.Pointer v.Type))).emit b (.Store v (.Inst g1.nextId (.Pointer v.Type))),
      ?_, ?_, ?_, ?_, ?_, ?_, ?_, ?_, ?_, ?_⟩
    · rw [generateExpression_shortDecl]
      simp [h, hv, hf, hb, Bind.bind, Except.bind, pure, Except.pure, IRGenerator.NewAlloca]
    · simp [shortDeclCode, Block.push]
    · simp [Block.push]
    · intro c hc
      simp [hc]
    · simp
    · simp [assign, lookup]
    · simp
    · simp [hf]
    · simp [hb]
    · simp

/-- C20 at `x := 2` after `func f() { x := 1 }` has been lowered, and at
`x := 1` in an empty entry block. -/
theorem C20_short_declaration_witness :
    generateExpression (shortDecl "x" (.IntegerLiteral 2)) afterShortDecl
        = .ok (none, afterShortDecl.ReportError ("Değişken zaten tanımlı: " ++ "x")) ∧
    ∃ g', generateExpression (shortDecl "x" (.IntegerLiteral 1)) indexState
          = .ok (some (.ConstInt .I32 1), g') ∧
        (g'.blocks 0).insts
          = (indexState.blocks 0).insts ++ shortDeclCode indexState.nextId "x" (.ConstInt .I32 1) ∧
        (g'.blocks 0).term = (indexState.blocks 0).term ∧
        (∀ c, c ≠ 0 → g'.blocks c = indexState.blocks c) ∧
        g'.symbolTable
          = assign "x" (.Inst indexState.nextId (.Pointer (Value.ConstInt .I32 1).Type))
              indexState.symbolTable ∧
        lookup "x" g'.symbolTable
          = some (.Inst indexState.nextId (.Pointer (Value.ConstInt .I32 1).Type)) ∧
        g'.errors = indexState.errors ∧ g'.currentFunc = some 0 ∧ g'.currentBB = some 0 ∧
        g'.nblocks = indexState.nblocks :=
  ⟨(C20_short_declaration "x" (.IntegerLiteral 2) afterShortDecl).1 (by decide),
   (C20_short_declaration "x" (.IntegerLiteral 1) indexState).2 (by decide)
      (.ConstInt .I32 1) indexState 0 0 rfl rfl rfl⟩

/-- C21.  When lowering a function declaration, or a function literal,
returns, the current function and the current block of the generator are the
ones it had before, whatever the parameters, the return type and the body
are. -/
theorem C21_cursor_restored_after_function (g g' : IRGenerator) :
    (∀ (funcName : String) (parameters : List String) (returnType : Option Expression)
        (body : Option (List Statement)),
      generateStatement (.FunctionStatement funcName parameters returnType body) g = .ok ((), g') →
      g'.currentFunc = g.currentFunc ∧ g'.currentBB = g.currentBB) ∧
    (∀ (parameters : List String) (body : Option (List Statement)) (v : Option Value),
      generateExpression (.FunctionLiteral parameters body) g = .ok (v, g') →
      g'.currentFunc = g.currentFunc ∧ g'.currentBB = g.currentBB) := by
  constructor
  · intro funcName parameters returnType body e
    rw [generateStatement_function_eq] at e
    have h2 := functionReturnType_currentFunc returnType g
    rcases hfr : functionReturnType returnType g with ⟨retTy, g0⟩
    rw [hfr] at e h2
    have h1 := appendParams_currentFunc parameters g0.nfuncs (g0.addFunc funcName retTy [])
    dsimp only [IRGenerator.NewFunc] at e h1 h2
    rw [bind_ok] at e
    obtain ⟨⟨x1, g1⟩, -, e⟩ := e
    rw [bind_ok] at e
    obtain ⟨⟨x2, g2⟩, -, e⟩ := e
    cases body <;>
    · rw [bind_ok] at e
      obtain ⟨⟨x3, g3⟩, -, e⟩ := e
      rw [bind_ok] at e
      obtain ⟨⟨x4, g4⟩, -, e⟩ := e
      cases e
      exact ⟨h1.1.trans h2.1, h1.2.trans h2.2⟩
  · intro parameters body v e
    rw [generateExpression_functionLiteral_eq] at e
    have h1 := foldlAppendParam_currentFunc parameters g.nfuncs (g.addFunc "anonymous_func" .I32 [])
    dsimp only [IRGenerator.NewFunc] at e h1
    rw [bind_ok] at e
    obtain ⟨⟨x1, g1⟩, -, e⟩ := e
    rw [bind_ok] at e
    obtain ⟨⟨x2, g2⟩, -, e⟩ := e
    cases body <;>
    · rw [bind_ok] at e
      obtain ⟨⟨x3, g3⟩, -, e⟩ := e
      rw [bind_ok] at e
      obtain ⟨⟨x4, g4⟩, -, e⟩ := e
      cases e
      exact ⟨h1.1, h1.2⟩

/-- C21 at `func h(a) { return a }` and at the literal `func(a) { return a }`,
both lowered inside the entry block of a function. -/
theorem C21_cursor_restored_witness :
    (∃ g', generateStatement (.FunctionStatement "h" ["a"] none (some returnParameterBody))
          indexState = .ok ((), g') ∧
        g'.currentFunc = indexState.currentFunc ∧ g'.currentBB = indexState.currentBB) ∧
    (∃ v g', generateExpression (.FunctionLiteral ["a"] (some returnParameterBody)) indexState
          = .ok (v, g') ∧
        g'.currentFunc = indexState.currentFunc ∧ g'.currentBB = indexState.currentBB) :=
  ⟨⟨_, rfl, (C21_cursor_restored_after_function indexState _).1 "h" ["a"] none
      (some returnParameterBody) rfl⟩,
   ⟨_, _, rfl, (C21_cursor_restored_after_function indexState _).2 ["a"]
      (some returnParameterBody) _ rfl⟩⟩

/-- C22.  When lowering the statements `pre` leaves the generator inside a
function with a current block that has no terminator, lowering the block
`pre ++ [return e] ++ post` gives the same outcome (the same generator, or
the same panic) as lowering `pre ++ [return e]`, with or without a returned
expression. -/
theorem C22_statements_after_return_are_skipped (pre post : List Statement)
    (returnValue : Option Expression) (g g1 : IRGenerator)
    (hpre : generateBlockStatement pre g = .ok ((), g1))
    (hopen : g1.terminated = false)
    (hf : g1.currentFunc.isSome = true) (hb : g1.currentBB.isSome = true) :
    generateBlockStatement (pre ++ [.ReturnStatement returnValue] ++ post) g
      = generateBlockStatement (pre ++ [.ReturnStatement returnValue]) g := by
  rw [List.append_assoc, generateBlockStatement_append pre _ g g1 hpre hopen,
    generateBlockStatement_append pre _ g g1 hpre hopen]
  rw [List.singleton_append, generateBlockStatement_cons_eq, generateBlockStatement_cons_eq]
  cases h : generateStatement (.ReturnStatement returnValue) g1 with
  | error m => rfl
  | ok r =>
    obtain ⟨u, g2⟩ := r
    have ht := generateStatement_return_terminated returnValue g1 g2 hf hb h
    dsimp only [Bind.bind, Except.bind]
    rw [if_pos ht, if_pos ht]

/-- C22 at `1; return 2; nope` in an empty entry block: the unbound
identifier after the return is not lowered. -/
theorem C22_statements_after_return_witness :
    generateBlockStatement
        ([.ExpressionStatement (.IntegerLiteral 1)] ++ [.ReturnStatement (some (.IntegerLiteral 2))]
          ++ [identifierStatement "nope"]) indexState
      = generateBlockStatement
        ([.ExpressionStatement (.IntegerLiteral 1)] ++ [.ReturnStatement (some (.IntegerLiteral 2))])
        indexState :=
  C22_statements_after_return_are_skipped [.ExpressionStatement (.IntegerLiteral 1)]
    [identifierStatement "nope"] (some (.IntegerLiteral 2)) indexState indexState rfl rfl rfl rfl

/-- C23 (defect in the code).  On the program `func f() { !5 }` the
generator returns the module without any diagnostic; the entry block of `f`
holds the instruction `xor i32 5, i1 1`, whose operands have different
types. -/
theorem C23_not_of_integer_emits_xor :
    (compile notOfIntegerProgram).map (fun r => (r.2.errors, r.2.blocksOf 0)) =
      some ([], [⟨"entry", [.Bin 0 .Xor (.ConstInt .I32 5) (.ConstInt .I1 1)],
        some (.Ret (.ConstInt .I32 0))⟩]) := by
  decide

/-- C24.  For an infix expression with operator `+`, `-`, `*` or `/`
(`iop` and `fop` are the integer and the floating-point instruction that
`arithmeticInstructions` pairs with it) whose operands lower to `lv` and
`rv`, leaving the cursor at block `b`: when both have an integer type the
instruction `iop lv rv` is appended to `b` and its result is the value; else
when both have a floating-point type the instruction `fop lv rv` is; else
when the operator is `+` and both are strings the outcome is that of
`generateStringConcatenation`; in every other case no value is produced and
the only change is one appended diagnostic. -/
theorem C24_arithmetic_by_operand_types (left right : Expression) (op : String)
    (iop fop : BinOp) (g g1 g2 : IRGenerator) (lv rv : Value) (b : Nat)
    (hop : arithmeticInstructions op = some (iop, fop))
    (hl : generateExpression left g = .ok (some lv, g1))
    (hr : generateExpression right g1 = .ok (some rv, g2))
    (hb : g2.currentBB = some b) :
    generateExpression (.InfixExpression left op right) g =
      if lv.Type.IsInt = true ∧ rv.Type.IsInt = true then
        .ok (some (.Inst g2.nextId lv.Type), (g2.emit b (.Bin g2.nextId iop lv rv)).fresh)
      else if lv.Type.IsFloat = true ∧ rv.Type.IsFloat = true then
        .ok (some (.Inst g2.nextId lv.Type), (g2.emit b (.Bin g2.nextId fop lv rv)).fresh)
      else if op = "+" ∧ isStringType lv.Type = true ∧ isStringType rv.Type = true then
        generateStringConcatenation lv rv g2
      else .ok (none, g2.ReportError ("Desteklenmeyen araek operatörü: " ++ op)) := by
  have h1 : op ≠ ":=" := by
    rintro rfl
    simp [arithmeticInstructions] at hop
  have h2 : op ≠ "&&" := by
    rintro rfl
    simp [arithmeticInstructions] at hop
  have h3 : op ≠ "||" := by
    rintro rfl
    simp [arithmeticInstructions] at hop
  rw [generateExpression_infix_eq, if_neg h1, hl]
  dsimp only [Bind.bind, Except.bind]
  rw [hr]
  dsimp only
  have hb2 : ¬ g2.currentBB.isNone = true := by simp [hb]
  rw [if_neg hb2, if_neg h2, if_neg h3]
  unfold infixOperator arithmeticInstructions at *
  by_cases p1 : op = "+"
  · subst p1
    simp only [if_true] at hop
    cases hop
    simp only [IRGenerator.NewBin, IRGenerator.NewInst, hb, asResult, Bool.and_eq_true, if_true,
      true_and]
  · rw [if_neg p1] at hop ⊢
    by_cases p2 : op = "-"
    · subst p2
      simp only [if_true] at hop
      cases hop
      simp [IRGenerator.NewBin, IRGenerator.NewInst, hb, asResult]
    · rw [if_neg p2] at hop ⊢
      by_cases p3 : op = "*"
      · subst p3
        simp only [if_true] at hop
        cases hop
        simp [IRGenerator.NewBin, IRGenerator.NewInst, hb, asResult]
      · rw [if_neg p3] at hop ⊢
        by_cases p4 : op = "/"
        · subst p4
          simp only [if_true] at hop
          cases hop
          simp [IRGenerator.NewBin, IRGenerator.NewInst, hb, asResult]
        · rw [if_neg p4] at hop
          cases hop

/-- C24 at `1 + 0.0` in an empty entry block: one diagnostic, no value, no
promotion. -/
theorem C24_arithmetic_witness :
    generateExpression (.InfixExpression (.IntegerLiteral 1) "+" (.FloatLiteral 0)) indexState
      = .ok (none, indexState.ReportError ("Desteklenmeyen araek operatörü: " ++ "+")) :=
  (C24_arithmetic_by_operand_types (.IntegerLiteral 1) (.FloatLiteral 0) "+" .Add .FAdd
    indexState indexState indexState (.ConstInt .I32 1) (.ConstFloat .Double 0) 0
    (by decide) rfl rfl rfl).trans rfl

/-- C25 (defect in the code).  The integer literal `2147483648`, which
`strconv.ParseInt(_, 0, 64)` accepts, lowers to the constant
`i32 2147483648` without any diagnostic; read as a signed 32-bit integer
this constant is `-2147483648`. -/
theorem C25_literal_beyond_32_bits_reads_back_negative :
    (match generateExpression (.IntegerLiteral 2147483648) indexState with
      | .ok (some v, g') => some (v, (Machine.mk [] []).eval v, g'.errors)
      | _ => none)
      = some (.ConstInt .I32 2147483648, .int (-2147483648), []) := by
  decide

/-- C26.  For an expression node of a kind without a case in the type
switch of `generateExpression` (`t` is its Go type name, such as
`*ast.CharLiteral`, `*ast.NullLiteral` or `*ast.HashLiteral`), and for the
array-type node, lowering yields no value and returns the generator with one
diagnostic appended; for a statement node of a kind without a case in the
type switch of `generateStatement` likewise; and appending a diagnostic
changes no other field of the generator. -/
theorem C26_unsupported_nodes_report_one_diagnostic (t : String) (g : IRGenerator) :
    generateExpression (.Other t) g
        = .ok (none, g.ReportError ("Desteklenmeyen ifade türü: " ++ t)) ∧
      (∀ (size : Option Expression) (elementType : Expression),
        generateExpression (.ArrayType size elementType) g
          = .ok (none, g.ReportError "Desteklenmeyen ifade türü: *ast.ArrayType")) ∧
      generateStatement (.Other t) g
        = .ok ((), g.ReportError ("Desteklenmeyen deyim türü: " ++ t)) ∧
      ∀ msg : String, g.ReportError msg = { g with errors := g.errors ++ [msg] } :=
  ⟨rfl, fun _ _ => rfl, rfl, fun _ => rfl⟩

set_option maxHeartbeats 1600000 in
/-- C27. An if-expression lowered inside a function, on an existing current
block `b`, whose condition lowers to the value `c`: with `k` the label counter
after the condition plus one (larger than every label used before), the three
blocks `if.then.k`, `if.else.k` and `if.end.k` are the next three blocks of
the module; `b` is closed by the conditional branch on `c` to the first two
and every other earlier block is untouched; the block each arm ends in carries
the terminator the arm gave it, or else a branch to the merge block (an absent
arm makes its block branch straight to the merge block); the merge block is
empty and open, the cursor is on it, and the expression has no value. -/
theorem C27_if_expression_blocks (condition : Expression)
    (consequence alternative : Option (List Statement)) (g g1 g' : IRGenerator) (c : Value)
    (f b : Nat) (r : Option Value)
    (hc : generateExpression condition g = .ok (some c, g1))
    (hf : g1.currentFunc = some f) (hb : g1.currentBB = some b) (hlt : b < g1.nblocks)
    (he : generateExpression (.IfExpression condition consequence alternative) g = .ok (r, g')) :
    r = none ∧ g'.currentBB = some (g1.nblocks + 2) ∧ g'.currentFunc = some f ∧
      g.labelCounter < g1.labelCounter + 1 ∧ g1.labelCounter + 1 ≤ g'.labelCounter ∧
      g1.nblocks + 3 ≤ g'.nblocks ∧
      (g'.blocks g1.nblocks).name = "if.then." ++ toString (g1.labelCounter + 1) ∧
      (g'.blocks (g1.nblocks + 1)).name = "if.else." ++ toString (g1.labelCounter + 1) ∧
      g'.blocks (g1.nblocks + 2) = ⟨"if.end." ++ toString (g1.labelCounter + 1), [], none⟩ ∧
      g'.blocks b = (g1.blocks b).close (.CondBr c g1.nblocks (g1.nblocks + 1)) ∧
      (∀ x, x < g1.nblocks → x ≠ b → g'.blocks x = g1.blocks x) ∧
      ∃ g4 g6, ifArm consequence (g1.nblocks + 2) (ifHead c f b g1) = .ok ((), g4) ∧
        ifArm alternative (g1.nblocks + 2) (g4.setCurrentBB (some (g1.nblocks + 1))) =
          .ok ((), g6) ∧
        g' = g6.setCurrentBB (some (g1.nblocks + 2)) ∧
        (consequence = none → g'.blocks g1.nblocks =
          ⟨"if.then." ++ toString (g1.labelCounter + 1), [], some (.Br (g1.nblocks + 2))⟩) ∧
        (∀ stmts, consequence = some stmts → ∃ g3 d3,
          generateBlockStatement stmts (ifHead c f b g1) = .ok ((), g3) ∧
          g3.currentBB = some d3 ∧
          (g'.blocks d3).term = some ((g3.blocks d3).term.getD (.Br (g1.nblocks + 2)))) ∧
        (alternative = none → g'.blocks (g1.nblocks + 1) =
          ⟨"if.else." ++ toString (g1.labelCounter + 1), [], some (.Br (g1.nblocks + 2))⟩) ∧
        (∀ stmts, alternative = some stmts → ∃ g5 d5,
          generateBlockStatement stmts (g4.setCurrentBB (some (g1.nblocks + 1))) = .ok ((), g5) ∧
          g5.currentBB = some d5 ∧
          (g'.blocks d5).term = some ((g5.blocks d5).term.getD (.Br (g1.nblocks + 2)))) := by
  rw [generateExpression_if_arms condition consequence alternative g g1 c f b hc hf hb,
    bind_ok] at he
  obtain ⟨⟨u4, g4⟩, e4, he⟩ := he
  cases u4
  rw [bind_ok] at he
  obtain ⟨⟨u6, g6⟩, e6, he⟩ := he
  cases u6
  cases he
  have hne0 : b ≠ g1.nblocks := Nat.ne_of_lt hlt
  have hne1 : b ≠ g1.nblocks + 1 := by omega
  have hne2 : b ≠ g1.nblocks + 2 := by omega
  have hH : ∀ x, (ifHead c f b g1).blocks x =
      if x = b then (g1.blocks b).close (.CondBr c g1.nblocks (g1.nblocks + 1))
      else if x = g1.nblocks + 2 then ⟨"if.end." ++ toString (g1.labelCounter + 1), [], none⟩
      else if x = g1.nblocks + 1 then ⟨"if.else." ++ toString (g1.labelCounter + 1), [], none⟩
      else if x = g1.nblocks then ⟨"if.then." ++ toString (g1.labelCounter + 1), [], none⟩
      else g1.blocks x := by
    intro x
    simp only [ifHead, IRGenerator.setTerm, IRGenerator.addBlock, IRGenerator.setCurrentBB,
      IRGenerator.nextLabel, update, hne0, hne1, hne2, if_false]
  obtain ⟨k4, w4, a4n, a4s⟩ := ifArm_spec consequence (g1.nblocks + 2) g1.nblocks
    (ifHead c f b g1) g4 rfl (Nat.lt_add_of_pos_right (n := g1.nblocks) (k := 3) (by decide)) e4
  have n4 : g1.nblocks + 3 ≤ g4.nblocks := k4.nblocks
  obtain ⟨k6, w6, a6n, a6s⟩ := ifArm_spec alternative (g1.nblocks + 2) (g1.nblocks + 1)
    (g4.setCurrentBB (some (g1.nblocks + 1))) g6 rfl
    (Nat.lt_of_lt_of_le (by omega) n4) e6
  have n6 : g4.nblocks ≤ g6.nblocks := k6.nblocks
  have old : ∀ x, x < g1.nblocks + 3 → x ≠ g1.nblocks → x ≠ g1.nblocks + 1 →
      g6.blocks x = (ifHead c f b g1).blocks x := by
    intro x hx h0 h1
    have s6 : g6.blocks x = g4.blocks x :=
      k6.blocks x (Nat.lt_of_lt_of_le hx n4) (fun h => h1 (Option.some.inj h).symm)
    have s4 : g4.blocks x = (ifHead c f b g1).blocks x :=
      k4.blocks x hx (fun h => h0 (Option.some.inj h).symm)
    rw [s6, s4]
  have lc := (generateExpression_grows condition g g1 _ hc).labelCounter
  have lc4 : g1.labelCounter + 1 ≤ g4.labelCounter := w4.labelCounter
  have lc6 : g4.labelCounter ≤ g6.labelCounter := w6.labelCounter
  refine ⟨rfl, rfl, ?_, by omega, Nat.le_trans lc4 lc6, Nat.le_trans n4 n6, ?_, ?_, ?_, ?_, ?_,
    g4, g6, e4, e6, rfl, ?_, ?_, ?_, ?_⟩
  · show g6.currentFunc = some f
    rw [k6.currentFunc]
    show g4.currentFunc = some f
    rw [k4.currentFunc]
    exact hf
  · show (g6.blocks g1.nblocks).name = _
    rw [k6.names g1.nblocks (Nat.lt_of_lt_of_le (by omega) n4)]
    show (g4.blocks g1.nblocks).name = _
    rw [k4.names g1.nblocks (Nat.lt_add_of_pos_right (n := g1.nblocks) (k := 3) (by decide)), hH]
    simp [Nat.ne_of_gt hlt]
  · show (g6.blocks (g1.nblocks + 1)).name = _
    rw [k6.names (g1.nblocks + 1) (Nat.lt_of_lt_of_le (by omega) n4)]
    show (g4.blocks (g1.nblocks + 1)).name = _
    rw [k4.names (g1.nblocks + 1) (by show g1.nblocks + 1 < g1.nblocks + 3; omega), hH]
    have : g1.nblocks + 1 ≠ b := by omega
    simp [this]
  · show g6.blocks (g1.nblocks + 2) = _
    rw [old _ (by omega) (by omega) (by omega), hH]
    have : g1.nblocks + 2 ≠ b := by omega
    simp [this]
  · show g6.blocks b = _
    rw [old _ (by omega) (by omega) (by omega), hH]
    simp
  · intro x hx hxb
    show g6.blocks x = _
    rw [old _ (by omega) (by omega) (by omega), hH]
    have h0 : x ≠ g1.nblocks := by omega
    have h1 : x ≠ g1.nblocks + 1 := by omega
    have h2 : x ≠ g1.nblocks + 2 := by omega
    simp [hxb, h0, h1, h2]
  · intro hn
    show g6.blocks g1.nblocks = _
    have s6 : g6.blocks g1.nblocks = g4.blocks g1.nblocks :=
      k6.blocks _ (Nat.lt_of_lt_of_le (by omega) n4)
        (fun h => by have := Option.some.inj h; omega)
    rw [s6, a4n hn, hH]
    simp [Nat.ne_of_gt hlt, Block.close]
  · intro stmts hs
    obtain ⟨g3, d3, e3, hd, hcur, hv, ht⟩ := a4s stmts hs
    refine ⟨g3, d3, e3, hd, ?_⟩
    show (g6.blocks d3).term = _
    have hne : d3 ≠ g1.nblocks + 1 := by
      rcases hcur with h | h
      · omega
      · have : g1.nblocks + 3 ≤ d3 := h
        omega
    have s6 : g6.blocks d3 = g4.blocks d3 :=
      k6.blocks _ hv (fun h => hne (Option.some.inj h).symm)
    rw [s6, ht]
  · intro hn
    show g6.blocks (g1.nblocks + 1) = _
    rw [a6n hn]
    show (g4.blocks (g1.nblocks + 1)).close _ = _
    have s4 : g4.blocks (g1.nblocks + 1) = (ifHead c f b g1).blocks (g1.nblocks + 1) :=
      k4.blocks _ (by show g1.nblocks + 1 < g1.nblocks + 3; omega)
        (fun h => by
          have h5 : g1.nblocks = g1.nblocks + 1 := Option.some.inj h
          omega)
    rw [s4, hH]
    have : g1.nblocks + 1 ≠ b := by omega
    simp [this, Block.close]
  · intro stmts hs
    obtain ⟨g5, d5, e5, hd, -, -, ht⟩ := a6s stmts hs
    exact ⟨g5, d5, e5, hd, ht⟩

/-- C27 at `if true { return 1 }` lowered in an empty entry block. -/
theorem C27_if_expression_witness :
    ∃ c g', generateExpression (.BooleanLiteral true) indexState = .ok (some c, indexState) ∧
      indexState.currentFunc = some 0 ∧ indexState.currentBB = some 0 ∧
      generateExpression (.IfExpression (.BooleanLiteral true) (some returnOneArm) none)
        indexState = .ok (none, g') ∧
      g'.currentBB = some (indexState.nblocks + 2) ∧
      g'.blocks 0 = (indexState.blocks 0).close
        (.CondBr c indexState.nblocks (indexState.nblocks + 1)) :=
  ⟨_, _, rfl, rfl, rfl, rfl,
    (C27_if_expression_blocks (.BooleanLiteral true) (some returnOneArm) none indexState
      indexState _ _ 0 0 none rfl rfl rfl (by decide) rfl).2.1,
    (C27_if_expression_blocks (.BooleanLiteral true) (some returnOneArm) none indexState
      indexState _ _ 0 0 none rfl rfl rfl (by decide) rfl).2.2.2.2.2.2.2.2.2.1⟩

/-- C28 (defect in the code).  On the program
`func f() { var x int8; fmt.Println(x) }` the generator returns the module
without any diagnostic; the format string passed to `printf` is `"%s\n"`,
and the argument printed with it is the loaded value of `x`, of type
`i8`. -/
theorem C28_int8_argument_printed_as_string :
    (compile printInt8Program).map
        (fun r => (r.2.errors, r.1.globals.map r.2.globals, (r.2.blocksOf 0).map (·.insts))) =
      some ([], [⟨"", .Array 4 .I8, .ConstCharArray "%s\n\x00"⟩],
        [[.Alloca 0 .I8 "x", .Load 1 .I8 (.Inst 0 (.Pointer .I8)),
          .Call 2 (.Func 1 (.Func .I32 (.cons (.Pointer .I8) .nil) true))
            [.ConstGEP00 (.Array 4 .I8) 0, .Inst 1 .I8]]]) := by
  decide

/-- C29.  Lowering the concatenation of `a` and `b` in a well-formed
generator with current block `blk` returns; it appends to `blk` the seven
instructions of `concatenationCode` (length of `a`, length of `b`, their
sum, the sum plus one, the allocation of that many bytes, the copy of `a`
into the buffer, the concatenation of `b` onto it) and yields the result of
the last call; the four callees are functions of the module named `strlen`,
`malloc`, `strcpy` and `strcat`; for each of these four names the number of
functions of the module carrying it becomes one if it was zero and is
unchanged otherwise, and for every other name it is unchanged; the generator
stays well-formed, so the same holds for every further concatenation. -/
theorem C29_string_concatenation (a b : Value) (g : IRGenerator) (blk : Nat)
    (hb : g.currentBB = some blk) (hwf : g.wellFormed) :
    ∃ (g' : IRGenerator) (strlenF mallocF strcpyF strcatF : Nat),
      generateStringConcatenation a b g
        = .ok (some (.Inst (g.nextId + 6) (calleeRet (g'.funcValue strcatF))), g') ∧
      (g'.blocks blk).insts = (g.blocks blk).insts ++
        concatenationCode g.nextId (g'.funcValue strlenF) (g'.funcValue mallocF)
          (g'.funcValue strcpyF) (g'.funcValue strcatF) a b ∧
      (g'.funcs strlenF).name = "strlen" ∧ (g'.funcs mallocF).name = "malloc" ∧
      (g'.funcs strcpyF).name = "strcpy" ∧ (g'.funcs strcatF).name = "strcat" ∧
      strlenF ∈ g'.module.funcs ∧ mallocF ∈ g'.module.funcs ∧
      strcpyF ∈ g'.module.funcs ∧ strcatF ∈ g'.module.funcs ∧
      (∀ n, functionsNamed g' n
        = if n ∈ ["strcat", "strlen", "malloc", "strcpy"] then max 1 (functionsNamed g n)
          else functionsNamed g n) ∧
      g'.wellFormed ∧ g'.errors = g.errors ∧ g'.currentBB = g.currentBB ∧
      g'.currentFunc = g.currentFunc ∧
      (g'.blocks blk).term = (g.blocks blk).term ∧
      (∀ c, c ≠ blk → g'.blocks c = g.blocks c) := by
  have s1 := getOrDeclare_spec "strcat" (.Pointer .I8)
    [⟨"dest", .Pointer .I8⟩, ⟨"src", .Pointer .I8⟩] false g hwf
  rcases h1 : getOrDeclare "strcat" (.Pointer .I8)
    [⟨"dest", .Pointer .I8⟩, ⟨"src", .Pointer .I8⟩] false g with ⟨f1, g1⟩
  rw [h1] at s1
  obtain ⟨n1, w1, c1, o1, m1, p1, b1, cb1, cf1, id1, -, er1⟩ := s1
  have s2 := getOrDeclare_spec "strlen" .I32 [⟨"str", .Pointer .I8⟩] false g1 w1
  rcases h2 : getOrDeclare "strlen" .I32 [⟨"str", .Pointer .I8⟩] false g1 with ⟨f2, g2⟩
  rw [h2] at s2
  obtain ⟨n2, w2, c2, o2, m2, p2, b2, cb2, cf2, id2, -, er2⟩ := s2
  have s3 := getOrDeclare_spec "malloc" (.Pointer .I8) [⟨"size", .I32⟩] false g2 w2
  rcases h3 : getOrDeclare "malloc" (.Pointer .I8) [⟨"size", .I32⟩] false g2 with ⟨f3, g3⟩
  rw [h3] at s3
  obtain ⟨n3, w3, c3, o3, m3, p3, b3, cb3, cf3, id3, -, er3⟩ := s3
  have s4 := getOrDeclare_spec "strcpy" (.Pointer .I8)
    [⟨"dest", .Pointer .I8⟩, ⟨"src", .Pointer .I8⟩] false g3 w3
  rcases h4 : getOrDeclare "strcpy" (.Pointer .I8)
    [⟨"dest", .Pointer .I8⟩, ⟨"src", .Pointer .I8⟩] false g3 with ⟨f4, g4⟩
  rw [h4] at s4
  obtain ⟨n4, w4, c4, o4, m4, p4, b4, cb4, cf4, id4, -, er4⟩ := s4
  dsimp only at *
  have hcb : g4.currentBB = some blk := by rw [cb4, cb3, cb2, cb1, hb]
  have hid : g4.nextId = g.nextId := by rw [id4, id3, id2, id1]
  have hbl : g4.blocks = g.blocks := by rw [b4, b3, b2, b1]
  have hnone : ¬ g.currentBB.isNone = true := by simp [hb]
  refine ⟨(concatenationCode g.nextId (g4.funcValue f2) (g4.funcValue f3)
      (g4.funcValue f4) (g4.funcValue f1) a b).foldl (fun x i => (x.emit blk i).fresh) g4,
    f2, f3, f4, f1, ?_, ?_, ?_, ?_, ?_, ?_, ?_, ?_, ?_, ?_, ?_, ?_, ?_, ?_, ?_, ?_, ?_⟩
  · unfold generateStringConcatenation
    rw [if_neg hnone]
    simp only [h1, h2, h3, h4]
    simp [Bind.bind, Except.bind, pure, Except.pure, IRGenerator.NewCall, IRGenerator.NewBin,
      IRGenerator.NewInst, hcb, hid, concatenationCode, IRGenerator.funcValue, Value.Type]
  · simp [concatenationCode, hbl, update, Block.push, IRGenerator.funcValue]
  · have e : ∀ x, ((concatenationCode g.nextId (g4.funcValue f2) (g4.funcValue f3)
        (g4.funcValue f4) (g4.funcValue f1) a b).foldl (fun x i => (x.emit blk i).fresh) g4).funcs x
        = g4.funcs x := fun _ => by simp [concatenationCode]
    rw [e, o4 f2 (p3.subset m2), o3 f2 m2]
    exact n2
  · have e : ∀ x, ((concatenationCode g.nextId (g4.funcValue f2) (g4.funcValue f3)
        (g4.funcValue f4) (g4.funcValue f1) a b).foldl (fun x i => (x.emit blk i).fresh) g4).funcs x
        = g4.funcs x := fun _ => by simp [concatenationCode]
    rw [e, o4 f3 m3]
    exact n3
  · have e : ∀ x, ((concatenationCode g.nextId (g4.funcValue f2) (g4.funcValue f3)
        (g4.funcValue f4) (g4.funcValue f1) a b).foldl (fun x i => (x.emit blk i).fresh) g4).funcs x
        = g4.funcs x := fun _ => by simp [concatenationCode]
    rw [e]
    exact n4
  · have e : ∀ x, ((concatenationCode g.nextId (g4.funcValue f2) (g4.funcValue f3)
        (g4.funcValue f4) (g4.funcValue f1) a b).foldl (fun x i => (x.emit blk i).fresh) g4).funcs x
        = g4.funcs x := fun _ => by simp [concatenationCode]
    rw [e, o4 f1 (p3.subset (p2.subset m1)), o3 f1 (p2.subset m1), o2 f1 m1]
    exact n1
  · simpa [concatenationCode] using p4.subset (p3.subset m2)
  · simpa [concatenationCode] using p4.subset m3
  · simpa [concatenationCode] using m4
  · simpa [concatenationCode] using p4.subset (p3.subset (p2.subset m1))
  · intro n
    have e : functionsNamed ((concatenationCode g.nextId (g4.funcValue f2) (g4.funcValue f3)
        (g4.funcValue f4) (g4.funcValue f1) a b).foldl (fun x i => (x.emit blk i).fresh) g4) n
        = functionsNamed g4 n := by simp [concatenationCode, functionsNamed]
    rw [e, c4, c3, c2, c1]
    by_cases q1 : n = "strcat"
    · subst q1
      simp
    · by_cases q2 : n = "strlen"
      · subst q2
        simp
      · by_cases q3 : n = "malloc"
        · subst q3
          simp
        · by_cases q4 : n = "strcpy"
          · subst q4
            simp
          · simp [q1, q2, q3, q4]
  · intro f hf
    have e1 : ((concatenationCode g.nextId (g4.funcValue f2) (g4.funcValue f3)
        (g4.funcValue f4) (g4.funcValue f1) a b).foldl (fun x i => (x.emit blk i).fresh) g4).module
        = g4.module := by simp [concatenationCode]
    have e2 : ((concatenationCode g.nextId (g4.funcValue f2) (g4.funcValue f3)
        (g4.funcValue f4) (g4.funcValue f1) a b).foldl (fun x i => (x.emit blk i).fresh) g4).nfuncs
        = g4.nfuncs := by simp [concatenationCode]
    rw [e1] at hf
    rw [e2]
    exact w4 f hf
  · simp [concatenationCode, er4, er3, er2, er1]
  · simp [concatenationCode, hcb, hb]
  · simp [concatenationCode, cf4, cf3, cf2, cf1]
  · simp [concatenationCode, hbl, update, Block.push]
  · intro c hc
    simp [concatenationCode, hbl, update, hc]

/-- C29 at the concatenation of two null strings in an empty entry block. -/
theorem C29_string_concatenation_witness :
    ∃ (g' : IRGenerator) (strlenF mallocF strcpyF strcatF : Nat),
      generateStringConcatenation (.ConstNull (.Pointer .I8)) (.ConstNull (.Pointer .I8)) indexState
        = .ok (some (.Inst (indexState.nextId + 6) (calleeRet (g'.funcValue strcatF))), g') ∧
      (g'.blocks 0).insts = (indexState.blocks 0).insts ++
        concatenationCode indexState.nextId (g'.funcValue strlenF) (g'.funcValue mallocF)
          (g'.funcValue strcpyF) (g'.funcValue strcatF) (.ConstNull (.Pointer .I8))
          (.ConstNull (.Pointer .I8)) ∧
      (g'.funcs strlenF).name = "strlen" ∧ (g'.funcs mallocF).name = "malloc" ∧
      (g'.funcs strcpyF).name = "strcpy" ∧ (g'.funcs strcatF).name = "strcat" ∧
      strlenF ∈ g'.module.funcs ∧ mallocF ∈ g'.module.funcs ∧
      strcpyF ∈ g'.module.funcs ∧ strcatF ∈ g'.module.funcs ∧
      (∀ n, functionsNamed g' n
        = if n ∈ ["strcat", "strlen", "malloc", "strcpy"] then max 1 (functionsNamed indexState n)
          else functionsNamed indexState n) ∧
      g'.wellFormed ∧ g'.errors = indexState.errors ∧ g'.currentBB = indexState.currentBB ∧
      g'.currentFunc = indexState.currentFunc ∧
      (g'.blocks 0).term = (indexState.blocks 0).term ∧
      (∀ c, c ≠ 0 → g'.blocks c = indexState.blocks c) :=
  C29_string_concatenation (.ConstNull (.Pointer .I8)) (.ConstNull (.Pointer .I8)) indexState 0
    rfl (by intro f hf; cases hf)

/-- C30 (defect in the code).  On the program `func f() { main() }`, which
declares no function `main`, the generator returns the module without any
diagnostic; its functions are `f` and the function `main` declared for the
call, which has no block at all. -/
theorem C30_called_main_is_left_without_body :
    (compile callsMainProgram).map
        (fun r => (r.2.errors, r.1.funcs.map (fun f => ((r.2.funcs f).name, r.2.blocksOf f)))) =
      some ([], [("f", [⟨"entry", [.Call 0 (.Func 1 (.Func .I32 .nil false)) []],
          some (.Ret (.ConstInt .I32 0))⟩]), ("main", [])]) := by
  decide

/-- C31. `parseIntegerLiteral` returns a literal exactly when
`strconv.ParseInt(text, 0, 64)` accepts the text of the current token; then
the literal carries the current token and the parsed value and the parser,
its error list included, is unchanged; otherwise it returns nil and the only
change to the parser is one message appended to its error list. -/
theorem C31_parseIntegerLiteral_accepts_what_ParseInt_accepts (G : Grammar) (p : Parser) :
    ((parseIntegerLiteral G p).1.isSome = (G.ParseInt p.curToken.Literal).isSome) ∧
    (∀ value, G.ParseInt p.curToken.Literal = some value →
      parseIntegerLiteral G p = (some (.IntegerLiteral p.curToken value), p)) ∧
    (G.ParseInt p.curToken.Literal = none →
      (parseIntegerLiteral G p).1 = none ∧
      ∃ msg, parseIntegerLiteral G p = (none, { p with errors := p.errors ++ [msg] })) := by
  unfold parseIntegerLiteral
  cases h : G.ParseInt p.curToken.Literal with
  | none => exact ⟨rfl, fun _ hv => (by cases hv), fun _ => ⟨rfl, _, rfl⟩⟩
  | some v => exact ⟨rfl, fun _ hv => (by cases hv; rfl), fun hn => (by cases hn)⟩

/-- C32. Let the prefix parse functions registered for the first tokens of
three operands return the nodes `a`, `b` and `c` (given fuel `n` or more),
leaving the parser at `p1`, `p3` and `p5`; let the tokens after `a` and `b` be
no semicolons and be registered to `parseInfixExpression` with precedences
above `LOWEST`, and let the token after `c` be a semicolon.  Then, given
enough fuel, `parseExpression(LOWEST)` returns `Infix(op2, Infix(op1, a, b), c)`
when the precedence of `op2` is at most that of `op1`, and
`Infix(op1, a, Infix(op2, b, c))` when it is higher, and it leaves the parser
at `p5`: the semicolon is still the peek token.  In general the loop of
`parseExpression` returns the left expression and the parser as they are as
soon as the peek token is a semicolon. -/
theorem C32_parseExpression_precedence_climbing (G : Grammar) (n : Nat)
    (p0 p1 p3 p5 : Parser) (fa fb fc : PrefixParseFn) (a b c : Option Node)
    (hfa : G.prefixParseFns p0.curToken.typ = some fa)
    (ha : ∀ fuel, n ≤ fuel → callPrefixFn G fuel fa p0 = some (a, p1))
    (h1s : p1.peekToken.typ ≠ G.SEMICOLON)
    (h1i : G.infixParseFns p1.peekToken.typ = some .parseInfixExpression)
    (h1p : G.LOWEST < p1.peekPrecedence G)
    (hfb : G.prefixParseFns p1.nextToken.nextToken.curToken.typ = some fb)
    (hb : ∀ fuel, n ≤ fuel → callPrefixFn G fuel fb p1.nextToken.nextToken = some (b, p3))
    (h2s : p3.peekToken.typ ≠ G.SEMICOLON)
    (h2i : G.infixParseFns p3.peekToken.typ = some .parseInfixExpression)
    (h2p : G.LOWEST < p3.peekPrecedence G)
    (hfc : G.prefixParseFns p3.nextToken.nextToken.curToken.typ = some fc)
    (hc : ∀ fuel, n ≤ fuel → callPrefixFn G fuel fc p3.nextToken.nextToken = some (c, p5))
    (hend : p5.peekToken.typ = G.SEMICOLON) (fuel : Nat) (hfuel : n + 10 ≤ fuel) :
    parseExpression G fuel G.LOWEST p0 =
      some (if p3.peekPrecedence G ≤ p1.peekPrecedence G
        then infixNode p3.peekToken (infixNode p1.peekToken a b) c
        else infixNode p1.peekToken a (infixNode p3.peekToken b c), p5) ∧
    ∀ (k precedence : Nat) (leftExp : Option Node) (q : Parser),
      q.peekToken.typ = G.SEMICOLON →
      parseExpressionLoop G (k + 1) precedence leftExp q = some (leftExp, q) := by
  refine ⟨?_, fun k precedence leftExp q h =>
    parseExpressionLoop_semicolon G k precedence leftExp q h⟩
  obtain ⟨m, rfl⟩ : ∃ m, fuel = m + 10 := ⟨fuel - 10, by omega⟩
  have hm : n ≤ m := by omega
  rw [parseExpression_operand G (m + 9) G.LOWEST p0 p1 fa a hfa (ha _ (by omega)),
    parseExpressionLoop_operator G (m + 6) G.LOWEST a p1 h1s h1p h1i,
    parseExpression_operand G (m + 5) _ _ p3 fb b hfb (hb _ (by omega))]
  by_cases hle : p3.peekPrecedence G ≤ p1.peekPrecedence G
  · rw [if_pos hle, parseExpressionLoop_low G (m + 4) _ b p3 (by omega)]
    dsimp only
    rw [parseExpressionLoop_operator G (m + 5) G.LOWEST _ p3 h2s h2p h2i,
      parseExpression_operand G (m + 4) _ _ p5 fc c hfc (hc _ (by omega)),
      parseExpressionLoop_semicolon G (m + 3) _ c p5 hend]
    dsimp only
    rw [parseExpressionLoop_semicolon G (m + 6) _ _ p5 hend]
  · rw [if_neg hle, parseExpressionLoop_operator G (m + 2) _ b p3 h2s (by omega) h2i,
      parseExpression_operand G (m + 1) _ _ p5 fc c hfc (hc _ (by omega)),
      parseExpressionLoop_semicolon G m _ c p5 hend]
    dsimp only
    rw [parseExpressionLoop_semicolon G (m + 3) _ _ p5 hend]
    dsimp only
    rw [parseExpressionLoop_semicolon G (m + 7) _ _ p5 hend]

/-- C32 at the tokens of `a + b * c ;` and of `a * b + c ;`: the product
binds tighter on either side, and the parser stops with the semicolon as
peek token. -/
theorem C32_parseExpression_witness :
    parseExpression sumProductGrammar 11 sumProductGrammar.LOWEST (parserOn sumThenProduct) =
      some (infixNode (tokenAt "+" 3) (some (.Identifier (tokenAt "a" 1) "a"))
        (infixNode (tokenAt "*" 7) (some (.Identifier (tokenAt "b" 5) "b"))
          (some (.Identifier (tokenAt "c" 9) "c"))),
        (parserOn sumThenProduct).nextToken.nextToken.nextToken.nextToken) ∧
    parseExpression sumProductGrammar 11 sumProductGrammar.LOWEST (parserOn productThenSum) =
      some (infixNode (tokenAt "+" 7)
        (infixNode (tokenAt "*" 3) (some (.Identifier (tokenAt "a" 1) "a"))
          (some (.Identifier (tokenAt "b" 5) "b")))
        (some (.Identifier (tokenAt "c" 9) "c")),
        (parserOn productThenSum).nextToken.nextToken.nextToken.nextToken) ∧
    ((parserOn sumThenProduct).nextToken.nextToken.nextToken.nextToken).peekToken =
      tokenAt ";" 10 :=
  ⟨(C32_parseExpression_precedence_climbing sumProductGrammar 1 (parserOn sumThenProduct)
      (parserOn sumThenProduct) (parserOn sumThenProduct).nextToken.nextToken
      (parserOn sumThenProduct).nextToken.nextToken.nextToken.nextToken
      .parseIdentifier .parseIdentifier .parseIdentifier _ _ _ rfl
      (callPrefixFn_parseIdentifier _ _) (by decide) rfl (by decide) rfl
      (callPrefixFn_parseIdentifier _ _) (by decide) rfl (by decide) rfl
      (callPrefixFn_parseIdentifier _ _) rfl 11 (by decide)).1.trans rfl,
   (C32_parseExpression_precedence_climbing sumProductGrammar 1 (parserOn productThenSum)
      (parserOn productThenSum) (parserOn productThenSum).nextToken.nextToken
      (parserOn productThenSum).nextToken.nextToken.nextToken.nextToken
      .parseIdentifier .parseIdentifier .parseIdentifier _ _ _ rfl
      (callPrefixFn_parseIdentifier _ _) (by decide) rfl (by decide) rfl
      (callPrefixFn_parseIdentifier _ _) (by decide) rfl (by decide) rfl
      (callPrefixFn_parseIdentifier _ _) rfl 11 (by decide)).1.trans rfl,
   rfl⟩

/-- C33, counterexample: in `func f() { return; f() }` the body contains a
call to `f`, which is not lowered (it follows the `return`): no function is
declared for it, and the module has one function named `f`. -/
theorem C33_call_after_return_declares_nothing :
    (match generateStatement callAfterReturnFunction New with
      | .ok (_, g') => some (functionsNamed g' "f", g'.lazyDeclared, g'.module.funcs)
      | .error _ => none) = some (1, [], [0]) := by
  decide

set_option maxHeartbeats 1600000 in
/-- C33, as the code has it.  A call of the name `f` that is lowered while
`f` is unbound (in a generator inside a function `d`, on an existing block):
the callee is a function made for the call, noted in the log of lazily
declared functions, named `f`, of type `i32 ()`, without a block, listed in
the module and distinct from `d`.  And for a declaration of the function
`f`: after it is lowered the symbol table binds `f` to the function defined,
which is listed in the module under the name `f`; every function that was
declared for a call to the unbound name `f` while the declaration was
lowered is another function than the one defined, still has the name `f` and
no block and is listed in the module, so that the module has at least two
functions named `f`. -/
theorem C33_lazy_callee_of_recursive_call (f : String) (parameters : List String)
    (returnType : Option Expression) (body : List Statement) (g g' : IRGenerator)
    (he : generateStatement (.FunctionStatement f parameters returnType (some body)) g
      = .ok ((), g')) :
    (∀ (x x' : IRGenerator) (arguments : List Expression) (r : Option Value) (d b : Nat),
      f ≠ "len" ∧ f ≠ "cap" ∧ f ≠ "append" ∧ f ≠ "make" →
      lookup f x.symbolTable = none → x.currentFunc = some d → d < x.nfuncs →
      x.currentBB = some b →
      generateExpression (.CallExpression (.Identifier f) arguments) x = .ok (r, x') →
      ∃ args g2 blk,
        callArguments arguments
          (((x.addFunc f .I32 []).bindSymbol f (.Func x.nfuncs (.Func .I32 .nil false))).noteLazy
            f x.nfuncs) = .ok (args, g2) ∧
        g2.currentBB = some blk ∧ r = some (.Inst g2.nextId .I32) ∧
        x' = (g2.emit blk (.Call g2.nextId (.Func x.nfuncs (.Func .I32 .nil false)) args)).fresh ∧
        x.nfuncs ≠ d ∧ (f, x.nfuncs) ∈ x'.lazyDeclared ∧ (x'.funcs x.nfuncs).name = f ∧
        (x'.funcs x.nfuncs).blocks = [] ∧ x.nfuncs ∈ x'.module.funcs) ∧
    lookup f g'.symbolTable = some (g'.funcValue g.nfuncs) ∧
    (g'.funcs g.nfuncs).name = f ∧ g.nfuncs ∈ g'.module.funcs ∧
    ∀ c, (f, c) ∈ g'.lazyDeclared → (f, c) ∉ g.lazyDeclared →
      c ≠ g.nfuncs ∧ (g'.funcs c).name = f ∧ (g'.funcs c).blocks = [] ∧
        c ∈ g'.module.funcs ∧ 2 ≤ functionsNamed g' f := by
  constructor
  · intro x x' arguments r d b hname hunbound hd hlt hb hx
    rw [generateExpression_call_unbound f arguments x b hname hunbound hb] at hx
    generalize hx1 : ((x.addFunc f .I32 []).bindSymbol f
      (.Func x.nfuncs (.Func .I32 .nil false))).noteLazy f x.nfuncs = x1 at hx
    rcases hca : callArguments arguments x1 with err | ⟨args, g2⟩
    · rw [hca] at hx
      cases hx
    rw [hca] at hx
    dsimp only [Bind.bind, Except.bind] at hx
    have k2 := callArguments_kept arguments x1 g2 args hca
    have h1f : x1.currentFunc = some d := by
      rw [← hx1]
      exact hd
    have h1n : x1.nfuncs = x.nfuncs + 1 := by
      rw [← hx1]
      rfl
    have h1c : (x1.funcs x.nfuncs) = ⟨f, .Func .I32 .nil false, [], []⟩ := by
      rw [← hx1]
      simp [update, TyList.ofList]
    have h1m : x.nfuncs ∈ x1.module.funcs := by
      rw [← hx1]
      simp
    have h1l : (f, x.nfuncs) ∈ x1.lazyDeclared := by
      rw [← hx1]
      simp
    have h1b : x1.currentBB = some b := by
      rw [← hx1]
      exact hb
    obtain ⟨blk, h2b⟩ : ∃ blk, g2.currentBB = some blk := by
      rcases hb2 : g2.currentBB with _ | blk
      · have := k2.cursorNone hb2
        rw [h1b] at this
        cases this
      · exact ⟨blk, rfl⟩
    have hcall : asResult (g2.NewCall g2.currentBB (.Func x.nfuncs (.Func .I32 .nil false)) args) =
        .ok (some (.Inst g2.nextId .I32),
          (g2.emit blk (.Call g2.nextId (.Func x.nfuncs (.Func .I32 .nil false)) args)).fresh) := by
      rw [h2b]
      rfl
    rw [hcall] at hx
    simp only [Except.ok.injEq, Prod.mk.injEq] at hx
    obtain ⟨hr, hx'⟩ := hx
    have hlt1 : x.nfuncs < x1.nfuncs := by omega
    refine ⟨args, g2, blk, rfl, h2b, hr.symm, hx'.symm, by omega, ?_, ?_, ?_, ?_⟩
    · rw [← hx']
      exact k2.functions.logged _ h1l
    · rw [← hx']
      show (g2.funcs x.nfuncs).name = f
      rw [k2.functions.names _ hlt1, h1c]
    · rw [← hx']
      show (g2.funcs x.nfuncs).blocks = []
      rw [k2.functions.blocks _ hlt1 (by rw [h1f]; intro h; have := Option.some.inj h; omega),
        h1c]
    · rw [← hx']
      exact k2.functions.listed _ h1m
  · rw [generateStatement_function_entry] at he
    rcases hentry : functionEntry f parameters returnType g with err | ⟨u, ge⟩
    · rw [hentry] at he
      cases he
    rw [hentry] at he
    dsimp only [Bind.bind, Except.bind] at he
    obtain ⟨hef, hen, hename, hemem, -⟩ := functionEntry_spec f parameters returnType g ge hentry
    have hlog := functionEntry_logged f parameters returnType g ge hentry
    rcases hbody : generateBlockStatement body ge with err | ⟨u5, g5⟩
    · rw [hbody] at he
      cases he
    rw [hbody] at he
    dsimp only at he
    have k5 := generateBlockStatement_kept body ge g5 () hbody
    rcases hir : implicitReturn false g5 with err | ⟨u6, g6⟩
    · rw [hir] at he
      cases he
    rw [hir] at he
    simp only [pure, Except.pure, Except.ok.injEq, Prod.mk.injEq, true_and] at he
    have k6 : Keeps ge g6 [] := k5.keeps_implicitReturn hir
    have hv : ∀ d, ge.currentFunc = some d → d < ge.nfuncs := by
      intro d hd
      rw [hef] at hd
      cases hd
      exact hen
    have hn6 : (g6.funcs g.nfuncs).name = f := by
      rw [k6.functions.names _ hen, hename]
    have hm6 : g.nfuncs ∈ g6.module.funcs := k6.functions.listed _ hemem
    subst he
    refine ⟨?_, hn6, hm6, ?_⟩
    · simp [IRGenerator.bindSymbol, assign, lookup, IRGenerator.funcValue]
    · intro c hc hnc
      have hc6 : (f, c) ∈ g6.lazyDeclared := hc
      have key : g.nfuncs < c ∧ (g6.funcs c).name = f ∧ (g6.funcs c).blocks = [] ∧
          c ∈ g6.module.funcs := by
        rcases k6.functions.declared hv _ hc6 with h1 | ⟨l1, l2, l3, l4, l5⟩
        · rcases hlog _ h1 with h0 | ⟨m1, m2, m3, m4, m5⟩
          · exact absurd h0 hnc
          · refine ⟨m1, ?_, ?_, k6.functions.listed _ m5⟩
            · rw [k6.functions.names _ m2]
              exact m3
            · rw [k6.functions.blocks _ m2 (by
                rw [hef]; intro h; have := Option.some.inj h; dsimp only at m1; omega)]
              exact m4
        · exact ⟨by dsimp only at l1; omega, l3, l4, l5⟩
      obtain ⟨q1, q2, q3, q4⟩ := key
      refine ⟨by omega, q2, q3, q4, ?_⟩
      exact two_le_countP _ _ g.nfuncs c (by omega) hm6 q4
        (by simpa using hn6) (by simpa using q2)

/-- C33 at `func f(n) { return n * f(n) }` lowered by a new generator: the
call is an operand of the returned product. -/
theorem C33_lazy_callee_witness :
    ∃ g', generateStatement recursiveProductFunction New = .ok ((), g') ∧
      ("f", 1) ∈ g'.lazyDeclared ∧
      lookup "f" g'.symbolTable = some (g'.funcValue 0) ∧
      (g'.funcs 1).name = "f" ∧ (g'.funcs 1).blocks = [] ∧ 2 ≤ functionsNamed g' "f" :=
  ⟨_, rfl, by decide,
    (C33_lazy_callee_of_recursive_call "f" ["n"] none recursiveProductBody New _ rfl).2.1,
    ((C33_lazy_callee_of_recursive_call "f" ["n"] none recursiveProductBody New _ rfl).2.2.2.2 1
      (by decide) (by decide)).2.1,
    ((C33_lazy_callee_of_recursive_call "f" ["n"] none recursiveProductBody New _ rfl).2.2.2.2 1
      (by decide) (by decide)).2.2.1,
    ((C33_lazy_callee_of_recursive_call "f" ["n"] none recursiveProductBody New _ rfl).2.2.2.2 1
      (by decide) (by decide)).2.2.2.2⟩
/-- C34 as stated fails: lowering `true && (true && true)` in an empty entry
block ends with the cursor on the merge block 4, but the right block 3 made
for the outer operator is closed by the conditional branch of the inner
operator, not by a branch to the merge block. -/
theorem C34_right_block_need_not_branch_to_merge :
    ∃ g', generateExpression nestedAnd indexState = .ok (some (.ConstInt .I1 0), g') ∧
      g'.currentBB = some 4 ∧
      (g'.blocks 2).term = some (.CondBr (.ConstInt .I1 1) 3 4) ∧
      (g'.blocks 3).term = some (.CondBr (.ConstInt .I1 1) 5 6) ∧
      (g'.blocks 3).term ≠ some (.Br 4) :=
  ⟨_, rfl, rfl, rfl, rfl, by decide⟩

set_option maxHeartbeats 1600000 in
/-- C34 as amended. For a logical operator `&&` or `||` whose operands lower
to the values `lv` and `rv`, leaving the generator inside a function on an
existing block `b`: the value is the constant `false` for `&&` and `true`
for `||`, whatever `lv` and `rv` are; the right block and the merge block are
the next two blocks of the module; `b` is closed by the conditional branch
on `lv` to them (right first for `&&`, merge first for `||`); the right
operand is lowered once more with the cursor on the right block, and the
block `d` this lowering ends in, which is the right block or a block made
later, is closed by a branch to the merge block; the merge block is empty and
open and the cursor is on it. -/
theorem C34_logical_operator_blocks (left right : Expression) (op : String)
    (g g1 g2 g' : IRGenerator) (lv rv : Value) (f b : Nat) (r : Option Value)
    (hop : op = "&&" ∨ op = "||")
    (hl : generateExpression left g = .ok (some lv, g1))
    (hr : generateExpression right g1 = .ok (some rv, g2))
    (hf : g2.currentFunc = some f) (hb : g2.currentBB = some b) (hlt : b < g2.nblocks)
    (he : generateExpression (.InfixExpression left op right) g = .ok (r, g')) :
    r = some (logicalResult op) ∧ g'.currentBB = some (g2.nblocks + 1) ∧
      g'.blocks (g2.nblocks + 1) = ⟨"", [], none⟩ ∧
      g'.blocks b = (g2.blocks b).close
        (if op = "&&" then .CondBr lv g2.nblocks (g2.nblocks + 1)
          else .CondBr lv (g2.nblocks + 1) g2.nblocks) ∧
      ∃ g3 rv2 d, generateExpression right (logicalHead op lv f b g2) = .ok (rv2, g3) ∧
        g3.currentBB = some d ∧ (d = g2.nblocks ∨ g2.nblocks + 2 ≤ d) ∧
        g'.blocks d = (g3.blocks d).close (.Br (g2.nblocks + 1)) := by
  rw [generateExpression_logical left right op g g1 g2 lv rv f b hop hl hr hf hb, bind_ok] at he
  obtain ⟨⟨rv2, g3⟩, e3, he⟩ := he
  dsimp only at he
  have k3 := generateExpression_keeps right _ g3 rv2 e3
  have hH : ∀ x, (logicalHead op lv f b g2).blocks x =
      if x = b then (g2.blocks b).close
        (if op = "&&" then .CondBr lv g2.nblocks (g2.nblocks + 1)
          else .CondBr lv (g2.nblocks + 1) g2.nblocks)
      else if x = g2.nblocks + 1 then ⟨"", [], none⟩
      else if x = g2.nblocks then ⟨"", [], none⟩
      else g2.blocks x := by
    intro x
    have hne0 : b ≠ g2.nblocks := Nat.ne_of_lt hlt
    have hne1 : b ≠ g2.nblocks + 1 := by omega
    simp only [logicalHead, IRGenerator.setTerm, IRGenerator.addBlock, IRGenerator.setCurrentBB,
      update, hne0, hne1, if_false]
  rcases hd : g3.currentBB with _ | d
  · have := k3.cursorNone hd
    cases this
  · have hcur : d = g2.nblocks ∨ g2.nblocks + 2 ≤ d := by
      rcases k3.cursor d hd with h | h
      · exact Or.inl (Option.some.inj h).symm
      · exact Or.inr h.1
    rw [hd] at he
    have he2 : (do
        let (_, g) ← g3.NewTerm (some d) (.Br (g2.nblocks + 1))
        pure (some (logicalResult op), g.setCurrentBB (some (g2.nblocks + 1)))) =
          Except.ok (r, g') := he
    rw [NewTerm_some] at he2
    cases he2
    have old : ∀ x, x < g2.nblocks + 2 → x ≠ g2.nblocks →
        g3.blocks x = (logicalHead op lv f b g2).blocks x := by
      intro x hx h0
      exact k3.blocks x hx (fun h => h0 (Option.some.inj h).symm)
    have hdb : b ≠ d := by omega
    have hdm : g2.nblocks + 1 ≠ d := by omega
    refine ⟨rfl, rfl, ?_, ?_, g3, rv2, d, e3, hd, hcur, ?_⟩
    · show (g3.setTerm d _).blocks (g2.nblocks + 1) = _
      simp only [IRGenerator.setTerm_blocks, update, if_neg hdm]
      rw [old _ (by omega) (by omega), hH]
      have : g2.nblocks + 1 ≠ b := by omega
      simp [this]
    · show (g3.setTerm d _).blocks b = _
      simp only [IRGenerator.setTerm_blocks, update, if_neg hdb]
      rw [old _ (by omega) (by omega), hH]
      simp
    · show (g3.setTerm d _).blocks d = _
      simp [IRGenerator.setTerm_blocks, update]

/-- C34 as amended at `false || false` lowered in an empty entry block. -/
theorem C34_logical_operator_witness :
    ∃ g', generateExpression (.InfixExpression (.BooleanLiteral false) "||"
        (.BooleanLiteral false)) indexState = .ok (some (logicalResult "||"), g') ∧
      g'.currentBB = some (indexState.nblocks + 1) :=
  ⟨_, rfl, (C34_logical_operator_blocks (.BooleanLiteral false) (.BooleanLiteral false) "||"
    indexState indexState indexState _ _ _ 0 0 _ (Or.inr rfl) rfl rfl rfl rfl (by decide) rfl).2.1⟩

/-- C35 (defect in the code).  On the programs `func f() float64 { }` and
`func f() int64 { return }` the generator returns the module without any
diagnostic; `f` has the declared result type (`double`, `i64`), and the
return the generator emits on its own is `ret i32 0` in both. -/
theorem C35_own_return_is_always_i32_zero :
    (compile implicitReturnFloatProgram).map
        (fun r => (r.2.errors, (r.2.funcs 0).sig, r.2.blocksOf 0)) =
      some ([], .Func .Double .nil false,
        [⟨"entry", [], some (.Ret (.ConstInt .I32 0))⟩]) ∧
    (compile bareReturnInt64Program).map
        (fun r => (r.2.errors, (r.2.funcs 0).sig, r.2.blocksOf 0)) =
      some ([], .Func .I64 .nil false,
        [⟨"entry", [], some (.Ret (.ConstInt .I32 0))⟩]) := by
  decide

/-- C36 (defect in the code).  On the program
`func f() { os.Exit(1); os.Exit(2) }` the generator returns the module
without any diagnostic; the module lists two functions named `exit`, and the
two calls have different callees. -/
theorem C36_exit_is_declared_on_every_call :
    (compile exitTwiceProgram).map
        (fun r => (r.2.errors, r.1.funcs.map (fun f => (r.2.funcs f).name),
          (r.2.blocksOf 0).map (·.insts))) =
      some ([], ["f", "exit", "exit", "main"],
        [[.Call 0 (.Func 1 (.Func .Void (.cons .I32 .nil) false)) [.ConstInt .I32 1],
          .Call 1 (.Func 2 (.Func .Void (.cons .I32 .nil) false)) [.ConstInt .I32 2]]]) := by
  decide

/-- C37. The generator built by `New` has a consistent cursor (no current
function and no current block); lowering an expression, a statement or a
block from a generator with a consistent cursor returns one with a
consistent cursor; so wherever a lowering has tested that there is a current
function, there is a current block, and in particular the conditional
branch of an if-expression whose condition has a value is written to the
block that is current after the condition, and no terminator written to the
current block after such a test meets a nil block.  Every node kind of the
two type switches is covered; the eight kinds lowered outside `irgen.go`
enter under the contract `keeps` of `ExternalExpression` and
`ExternalStatement` (the cursor is saved and restored). -/
theorem C37_cursor_consistent :
    New.cursorConsistent ∧
    (∀ (e : Expression) (g g' : IRGenerator) (r : Option Value), g.cursorConsistent →
      generateExpression e g = .ok (r, g') → g'.cursorConsistent) ∧
    (∀ (s : Statement) (g g' : IRGenerator), g.cursorConsistent →
      generateStatement s g = .ok ((), g') → g'.cursorConsistent) ∧
    (∀ (l : List Statement) (g g' : IRGenerator), g.cursorConsistent →
      generateBlockStatement l g = .ok ((), g') → g'.cursorConsistent) ∧
    (∀ (g : IRGenerator) (f : Nat), g.cursorConsistent → g.currentFunc = some f →
      ∃ b, g.currentBB = some b) ∧
    (∀ (g : IRGenerator) (f : Nat) (t : Terminator), g.cursorConsistent →
      g.currentFunc = some f → ∃ g', g.NewTerm g.currentBB t = .ok ((), g')) ∧
    (∀ (condition : Expression) (consequence alternative : Option (List Statement))
      (g g1 : IRGenerator) (c : Value) (f : Nat), g.cursorConsistent →
      generateExpression condition g = .ok (some c, g1) → g1.currentFunc = some f →
      ∃ b, g1.currentBB = some b ∧
        generateExpression (.IfExpression condition consequence alternative) g =
          (do
            let (_, g) ← ifArm consequence (g1.nblocks + 2) (ifHead c f b g1)
            let (_, g) ← ifArm alternative (g1.nblocks + 2)
              (g.setCurrentBB (some (g1.nblocks + 1)))
            pure (none, g.setCurrentBB (some (g1.nblocks + 2))))) := by
  have hcur : ∀ (g : IRGenerator) (f : Nat), g.cursorConsistent → g.currentFunc = some f →
      ∃ b, g.currentBB = some b := by
    intro g f hg hf
    unfold IRGenerator.cursorConsistent at hg
    rw [hf] at hg
    cases hb : g.currentBB with
    | none => rw [hb] at hg; cases hg
    | some b => exact ⟨b, rfl⟩
  refine ⟨rfl, ?_, ?_, ?_, hcur, ?_, ?_⟩
  · intro e g g' r hg h
    exact (generateExpression_keeps e g g' r h).keeps_cursorConsistent hg
  · intro s g g' hg h
    exact (generateStatement_keeps s g g' () h).keeps_cursorConsistent hg
  · intro l g g' hg h
    exact (generateBlockStatement_kept l g g' () h).keeps_cursorConsistent hg
  · intro g f t hg hf
    obtain ⟨b, hb⟩ := hcur g f hg hf
    rw [hb]
    exact ⟨_, rfl⟩
  · intro condition consequence alternative g g1 c f hg hc hf
    have h1 := (generateExpression_keeps condition g g1 _ hc).keeps_cursorConsistent hg
    obtain ⟨b, hb⟩ := hcur g1 f h1 hf
    exact ⟨b, hb, generateExpression_if_arms condition consequence alternative g g1 c f b hc hf hb⟩

/-- C37 at `func f(a) { if true { a++ } }` lowered by a new generator. -/
theorem C37_cursor_consistent_witness :
    ∃ g', generateStatement ifIncrementFunction New = .ok ((), g') ∧ g'.cursorConsistent :=
  ⟨_, rfl, C37_cursor_consistent.2.2.1 ifIncrementFunction New _ rfl rfl⟩

/-- C38. No value is bound in the generator built by `New`; when every value
bound in the symbol table has a pointer type, the same holds after lowering
an expression, a statement or a block; and in such a generator
`generatePostfixExpression` does not panic, whatever its operand and
operator are: the pointer type it asserts is there.  Every node kind of the
two type switches is covered; the eight kinds lowered outside `irgen.go`
enter under the contract `keeps` of `ExternalExpression` and
`ExternalStatement`. -/
theorem C38_bound_values_are_pointers :
    New.symbolsArePointers ∧
    (∀ (e : Expression) (g g' : IRGenerator) (r : Option Value), g.symbolsArePointers →
      generateExpression e g = .ok (r, g') → g'.symbolsArePointers) ∧
    (∀ (s : Statement) (g g' : IRGenerator), g.symbolsArePointers →
      generateStatement s g = .ok ((), g') → g'.symbolsArePointers) ∧
    (∀ (l : List Statement) (g g' : IRGenerator), g.symbolsArePointers →
      generateBlockStatement l g = .ok ((), g') → g'.symbolsArePointers) ∧
    (∀ (left : Expression) (op : String) (g : IRGenerator), g.symbolsArePointers →
      ∃ r, generatePostfixExpression left op g = .ok r) := by
  refine ⟨fun p hp => (by cases hp), ?_, ?_, ?_, ?_⟩
  · intro e g g' r hg h
    exact (generateExpression_keeps e g g' r h).symbols hg
  · intro s g g' hg h
    exact (generateStatement_keeps s g g' () h).symbols hg
  · intro l g g' hg h
    exact (generateBlockStatement_kept l g g' () h).symbols hg
  · intro left op g hg
    unfold generatePostfixExpression
    cases left with
    | Identifier varName =>
      dsimp only
      rcases hl : lookup varName g.symbolTable with _ | varAddr
      · exact ⟨_, rfl⟩
      · dsimp only
        rcases hb : g.currentBB with _ | b
        · exact ⟨_, rfl⟩
        · have hp := hg _ (lookup_mem _ _ _ hl)
          dsimp only at hp
          cases ht : varAddr.Type with
          | Pointer elemType =>
            have hst : ∀ (id : Nat) (x : IRGenerator), x.NewStore (some b) (.Inst id elemType)
                varAddr = .ok ((), x.emit b (.Store (.Inst id elemType) varAddr)) :=
              fun id x => NewStore_some x b _ _ ht
            simp only [IRGenerator.NewLoad, IRGenerator.NewInst, IRGenerator.NewBin,
              Option.isNone_some, Bool.false_eq_true, if_false]
            have hb2 : ∀ (i : Inst), ((g.emit b i).fresh).currentBB = some b := fun _ => hb
            split_ifs <;> first
              | exact ⟨_, rfl⟩
              | (simp [bind, Except.bind, hb2, hb, hst]
                 split_ifs <;> exact ⟨_, _, rfl⟩)
          | _ => rw [ht] at hp; cases hp
    | _ => exact ⟨_, rfl⟩

/-- C38 at `func f(a) { if true { a++ } }` lowered by a new generator, and
then `f++` in the generator it leaves. -/
theorem C38_bound_values_witness :
    ∃ g', generateStatement ifIncrementFunction New = .ok ((), g') ∧ g'.symbolsArePointers ∧
      ∃ r, generatePostfixExpression (.Identifier "f") "++" g' = .ok r :=
  ⟨_, rfl, C38_bound_values_are_pointers.2.2.1 ifIncrementFunction New _
      C38_bound_values_are_pointers.1 rfl,
    C38_bound_values_are_pointers.2.2.2.2 _ _ _
      (C38_bound_values_are_pointers.2.2.1 ifIncrementFunction New _
        C38_bound_values_are_pointers.1 rfl)⟩

/-- C39 (defect in the code).  On the program
`func f() { var x int8; x + 1; x < 1; -x; x++ }` the generator returns the
module without any diagnostic; the addition, the comparison, the negation
and the increment each have one operand of type `i8` (the loaded `x`) and
one of type `i32` (the constant). -/
theorem C39_int8_operand_meets_i32_constant :
    (compile int8ArithmeticProgram).map
        (fun r => (r.2.errors, (r.2.blocksOf 0).map (·.insts))) =
      some ([], [[.Alloca 0 .I8 "x",
        .Load 1 .I8 (.Inst 0 (.Pointer .I8)),
        .Bin 2 .Add (.Inst 1 .I8) (.ConstInt .I32 1),
        .Load 3 .I8 (.Inst 0 (.Pointer .I8)),
        .ICmp 4 .SLT (.Inst 3 .I8) (.ConstInt .I32 1),
        .Load 5 .I8 (.Inst 0 (.Pointer .I8)),
        .Bin 6 .Sub (.ConstInt .I32 0) (.Inst 5 .I8),
        .Load 7 .I8 (.Inst 0 (.Pointer .I8)),
        .Bin 8 .Add (.Inst 7 .I8) (.ConstInt .I32 1),
        .Store (.Inst 8 .I8) (.Inst 0 (.Pointer .I8))]]) ∧
      (Value.Inst 1 .I8).Type ≠ (Value.ConstInt .I32 1).Type := by
  decide

/-- C40 (defect in the code).  On the program `func f() { var x int; [x++] }`
the generator returns the module without any diagnostic; the entry block
holds the load, addition and store of `x++` twice, once before the array is
allocated and once in the element loop. -/
theorem C40_first_element_is_lowered_twice :
    (compile arrayOfIncrementProgram).map
        (fun r => (r.2.errors, (r.2.blocksOf 0).map (·.insts))) =
      some ([], [[.Alloca 0 .I32 "x",
        .Load 1 .I32 (.Inst 0 (.Pointer .I32)),
        .Bin 2 .Add (.Inst 1 .I32) (.ConstInt .I32 1),
        .Store (.Inst 2 .I32) (.Inst 0 (.Pointer .I32)),
        .Alloca 3 (.Array 1 .I32) "",
        .Load 4 .I32 (.Inst 0 (.Pointer .I32)),
        .Bin 5 .Add (.Inst 4 .I32) (.ConstInt .I32 1),
        .Store (.Inst 5 .I32) (.Inst 0 (.Pointer .I32)),
        .GetElementPtr 6 (.Array 1 .I32) (.Inst 3 (.Pointer (.Array 1 .I32)))
          [.ConstInt .I32 0, .ConstInt .I32 0],
        .Store (.Inst 4 .I32) (.Inst 6 (.Pointer .I32))]]) := by
  decide

end Irgen
